import Mathlib

/-!
# W65C816S cycle-stepped CPU core (src/src/chips/w65c816s.h)

Shallow embedding of the CPU emulator and verification of its specification.

Conventions of the embedding
* `uint8_t`, `uint16_t`, `uint32_t` and `uint64_t` values are natural numbers; every
  store into a field of width `w` is reduced `% 2^w` where the C expression can
  exceed the width, and C `int` is taken to be 32 bits wide.
* The complement `~x` is `NOT32 x` when it is computed on a (promoted) `int` that is
  afterwards masked to at most 32 bits, and `NOT64 x` when the operand is, or is
  converted to, a 64-bit value (the pin word).
* The byte access macros `_A`, `_B`, `_X`, `_XH`, `_Y`, `_YH`, `_S` alias the low or
  high byte of a 16-bit register through a pointer cast; the embedding takes the
  little-endian layout under which `_A` is the low and `_B` the high byte.
* `assert(false)` and the unreachable `default:` arm of the decoder abort the tick:
  `w65816_tick` returns `none` there.
-/

namespace W65816

/-! ## Pin masks (lines 186-277) -/

@[simp] def W65816_RW : Nat := 1 <<< 24
@[simp] def W65816_VPA : Nat := 1 <<< 25
@[simp] def W65816_VDA : Nat := 1 <<< 26
@[simp] def W65816_IRQ : Nat := 1 <<< 27
@[simp] def W65816_NMI : Nat := 1 <<< 28
@[simp] def W65816_RDY : Nat := 1 <<< 29
@[simp] def W65816_RES : Nat := 1 <<< 30
@[simp] def W65816_ABORT : Nat := 1 <<< 31

/-! ## Status flags and BRK state flags (lines 279-295) -/

@[simp] def W65816_CF : Nat := 1 <<< 0
@[simp] def W65816_ZF : Nat := 1 <<< 1
@[simp] def W65816_IF : Nat := 1 <<< 2
@[simp] def W65816_DF : Nat := 1 <<< 3
@[simp] def W65816_BF : Nat := 1 <<< 4
@[simp] def W65816_XF : Nat := 1 <<< 4
@[simp] def W65816_UF : Nat := 1 <<< 5
@[simp] def W65816_MF : Nat := 1 <<< 5
@[simp] def W65816_VF : Nat := 1 <<< 6
@[simp] def W65816_NF : Nat := 1 <<< 7

@[simp] def W65816_BRK_IRQ : Nat := 1 <<< 0
@[simp] def W65816_BRK_NMI : Nat := 1 <<< 1
@[simp] def W65816_BRK_RESET : Nat := 1 <<< 2

/-- CPU state `w65816_t` (lines 303-319). -/
structure w65816_t where
  IR : Nat
  PC : Nat
  AD : Nat
  C : Nat
  X : Nat
  Y : Nat
  DBR : Nat
  PBR : Nat
  D : Nat
  P : Nat
  S : Nat
  PINS : Nat
  irq_pip : Nat
  nmi_pip : Nat
  emulation : Nat
  brk_flags : Nat
  bcd_enabled : Nat
  deriving DecidableEq, Repr

/-- Two's complement `~x` of a 32-bit `int`, as its bit pattern. -/
def NOT32 (x : Nat) : Nat := 0xFFFFFFFF ^^^ (x % 0x100000000)

/-- Complement `~x` of a value converted to the 64-bit pin word. -/
def NOT64 (x : Nat) : Nat := 0xFFFFFFFFFFFFFFFF ^^^ (x % 0x10000000000000000)

/-- Bit pattern of the 32-bit `int` difference `a - b` (operands below `2^32`). -/
def SUB32 (a b : Nat) : Nat := (a % 0x100000000 + 0x100000000 - b % 0x100000000) % 0x100000000

/-- Bit pattern (16 bits) of `(int8_t)v` for a byte `v`: sign extension. -/
def SEXT8 (v : Nat) : Nat := if v &&& 0x80 ≠ 0 then 0xFF00 ||| (v &&& 0xFF) else v &&& 0xFF

/-! ## Public pin accessors (lines 354-369) -/

/-- Macro `W65816_GET_ADDR(p)`. -/
def W65816_GET_ADDR (p : Nat) : Nat := ((p &&& 0xFFFF) % 0x100000000) ||| (((p >>> 16) &&& 0xFF0000) % 0x100000000)

/-- An integer type of C as a shift sees it, after the integer promotions: the width in bits
and whether the type is signed.  A macro argument of type `uint8_t` or `uint16_t` is promoted
to `int`. -/
structure c_type where
  bits : Nat
  is_signed : Bool

/-- The type `int` (32 bits), also the promoted type of `uint8_t` and `uint16_t`. -/
def c_int : c_type := { bits := 32, is_signed := true }

/-- The type `uint32_t`. -/
def c_uint32_t : c_type := { bits := 32, is_signed := false }

/-- The type `uint64_t`, the type of the pin word. -/
def c_uint64_t : c_type := { bits := 64, is_signed := false }

/-- The value of `a << k` for a non-negative `a` of the type `t` and `k` below the width of
`t`, converted to `uint64_t` as the `&` with a 64-bit mask does: the shift is computed in `t`,
so the result wraps at the width of `t`; a signed result with the sign bit set (the wrap-around
that C++20 defines and that C compilers produce) is sign-extended by the conversion. -/
def c_shl (t : c_type) (a k : Nat) : Nat :=
  let r := (a <<< k) % 2 ^ t.bits
  if t.is_signed = true ∧ 2 ^ (t.bits - 1) ≤ r then r + (2 ^ 64 - 2 ^ t.bits) else r

/-- Macro `W65816_SET_ADDR(p,a)` with an argument `a` of the type `t`: `a<<16` is computed in
the type of the argument. -/
def W65816_SET_ADDR (t : c_type) (p a : Nat) : Nat :=
  (p &&& NOT64 0xFF0000FFFF) ||| (a &&& 0xFFFF) ||| (c_shl t a 16 &&& 0xFF00000000)

/-- Macro `W65816_GET_BANK(p)`. -/
def W65816_GET_BANK (p : Nat) : Nat := ((p &&& 0xFF00000000) >>> 32) % 256

/-- Macro `W65816_SET_BANK(p,a)` with an argument `a` of the type `t`: `a<<32` is computed in
the type of the argument; `none` when the shift count is not below the width of `t`, where the
shift is undefined. -/
def W65816_SET_BANK (t : c_type) (p a : Nat) : Option Nat :=
  if 32 < t.bits then some ((p &&& NOT64 0xFF00000000) ||| (c_shl t a 32 &&& 0xFF00000000))
  else none

/-- Macro `W65816_GET_DATA(p)`. -/
def W65816_GET_DATA (p : Nat) : Nat := ((p &&& 0xFF0000) >>> 16) % 256

/-- Macro `W65816_SET_DATA(p,d)`.  `(d)<<16` is computed in the promoted type of `d`, at least
32 bits wide, and only bits 16-23 of it are kept, which are the same in every such type. -/
def W65816_SET_DATA (p d : Nat) : Nat := (p &&& NOT64 0xFF0000) ||| ((d <<< 16) &&& 0xFF0000)

/-- Macro `W65816_COPY_DATA(p0,p1)`. -/
def W65816_COPY_DATA (p0 p1 : Nat) : Nat := (p0 &&& NOT64 0xFF0000) ||| (p1 &&& 0xFF0000)

/-- Macro `W65816_MAKE_PINS(ctrl, addr, data)` with an argument `addr` of the type `t`:
`addr<<16` is computed in the type of the argument; of `(data)<<16` only bits 16-23 are kept,
which are the same in every promoted type. -/
def W65816_MAKE_PINS (t : c_type) (ctrl addr data : Nat) : Nat :=
  ctrl ||| ((data <<< 16) &&& 0xFF0000) ||| (addr &&& 0xFFFF) |||
    (c_shl t addr 16 &&& 0xFF00000000)

/-! ## Register access macros (lines 391-404) -/

/-- Macro `_E(c)`. -/
def _E (c : w65816_t) : Bool := c.emulation != 0
/-- Macro `_a8(c)`. -/
def _a8 (c : w65816_t) : Bool := _E c || (c.P &&& W65816_MF != 0)
/-- Macro `_i8(c)`. -/
def _i8 (c : w65816_t) : Bool := _E c || (c.P &&& W65816_XF != 0)
/-- Macro `_A(c)` read: low byte of `C`. -/
def _A (c : w65816_t) : Nat := c.C &&& 0xFF
/-- Macro `_B(c)` read: high byte of `C`. -/
def _B (c : w65816_t) : Nat := (c.C >>> 8) &&& 0xFF
/-- Macro `_C(c)` read. -/
def _C (c : w65816_t) : Nat := c.C
/-- Macro `_X(c)` read: low byte of `X`. -/
def _X (c : w65816_t) : Nat := c.X &&& 0xFF
/-- Macro `_XH(c)` read: high byte of `X`. -/
def _XH (c : w65816_t) : Nat := (c.X >>> 8) &&& 0xFF
/-- Macro `_Y(c)` read: low byte of `Y`. -/
def _Y (c : w65816_t) : Nat := c.Y &&& 0xFF
/-- Macro `_YH(c)` read: high byte of `Y`. -/
def _YH (c : w65816_t) : Nat := (c.Y >>> 8) &&& 0xFF
/-- Macro `_S(c)` read: low byte of `S`. -/
def _S (c : w65816_t) : Nat := c.S &&& 0xFF

/-- Store through `_A(c)`: replaces the low byte of `C`. -/
def set_A (c : w65816_t) (v : Nat) : w65816_t := { c with C := (c.C &&& 0xFF00) ||| (v &&& 0xFF) }
/-- Store through `_B(c)`: replaces the high byte of `C`. -/
def set_B (c : w65816_t) (v : Nat) : w65816_t := { c with C := (c.C &&& 0xFF) ||| ((v &&& 0xFF) <<< 8) }
/-- Store through `_X(c)`: replaces the low byte of `X`. -/
def set_X (c : w65816_t) (v : Nat) : w65816_t := { c with X := (c.X &&& 0xFF00) ||| (v &&& 0xFF) }
/-- Store through `_XH(c)`: replaces the high byte of `X`. -/
def set_XH (c : w65816_t) (v : Nat) : w65816_t := { c with X := (c.X &&& 0xFF) ||| ((v &&& 0xFF) <<< 8) }
/-- Store through `_Y(c)`: replaces the low byte of `Y`. -/
def set_Y (c : w65816_t) (v : Nat) : w65816_t := { c with Y := (c.Y &&& 0xFF00) ||| (v &&& 0xFF) }
/-- Store through `_YH(c)`: replaces the high byte of `Y`. -/
def set_YH (c : w65816_t) (v : Nat) : w65816_t := { c with Y := (c.Y &&& 0xFF) ||| ((v &&& 0xFF) <<< 8) }
/-- Store through `_S(c)`: replaces the low byte of `S`. -/
def set_S (c : w65816_t) (v : Nat) : w65816_t := { c with S := (c.S &&& 0xFF00) ||| (v &&& 0xFF) }

/-! ## ALU helpers (lines 430-588) -/

/-- Macro `_W65816_NZ(p,v)` (line 431); the result is stored into the 8-bit `P`. -/
def _W65816_NZ (p v : Nat) : Nat :=
  ((p &&& NOT32 (W65816_NF ||| W65816_ZF)) ||| (if v &&& 0xFF ≠ 0 then v &&& W65816_NF else W65816_ZF)) % 256

/-- Function `_w65816_adc` (lines 433-473); `val` is a `uint8_t` parameter. -/
def _w65816_adc (cpu : w65816_t) (val : Nat) : w65816_t :=
  let val := val % 256
  if cpu.bcd_enabled ≠ 0 ∧ cpu.P &&& W65816_DF ≠ 0 then
    let c := if cpu.P &&& W65816_CF ≠ 0 then 1 else 0
    let cpu := { cpu with P := (cpu.P &&& NOT32 (W65816_NF ||| W65816_VF ||| W65816_ZF ||| W65816_CF)) % 256 }
    let al := ((_A cpu &&& 0x0F) + (val &&& 0x0F) + c) % 256
    let al := if al > 9 then (al + 6) % 256 else al
    let ah := ((_A cpu >>> 4) + (val >>> 4) + (if al > 0x0F then 1 else 0)) % 256
    let cpu :=
      if 0 = (_A cpu + val + c) % 256 then { cpu with P := (cpu.P ||| W65816_ZF) % 256 }
      else if ah &&& 0x08 ≠ 0 then { cpu with P := (cpu.P ||| W65816_NF) % 256 }
      else cpu
    let cpu :=
      if NOT32 (_A cpu ^^^ val) &&& (_A cpu ^^^ (ah <<< 4)) &&& 0x80 ≠ 0 then
        { cpu with P := (cpu.P ||| W65816_VF) % 256 }
      else cpu
    let ah := if ah > 9 then (ah + 6) % 256 else ah
    let cpu := if ah > 15 then { cpu with P := (cpu.P ||| W65816_CF) % 256 } else cpu
    set_A cpu ((ah <<< 4) ||| (al &&& 0x0F))
  else
    let sum := (_A cpu + val + (if cpu.P &&& W65816_CF ≠ 0 then 1 else 0)) % 65536
    let cpu := { cpu with P := (cpu.P &&& NOT32 (W65816_VF ||| W65816_CF)) % 256 }
    let cpu := { cpu with P := _W65816_NZ cpu.P sum }
    let cpu :=
      if NOT32 (_A cpu ^^^ val) &&& (_A cpu ^^^ sum) &&& 0x80 ≠ 0 then
        { cpu with P := (cpu.P ||| W65816_VF) % 256 }
      else cpu
    let cpu := if sum &&& 0xFF00 ≠ 0 then { cpu with P := (cpu.P ||| W65816_CF) % 256 } else cpu
    set_A cpu (sum &&& 0xFF)

/-- Function `_w65816_sbc` (lines 475-516); `val` is a `uint8_t` parameter. -/
def _w65816_sbc (cpu : w65816_t) (val : Nat) : w65816_t :=
  let val := val % 256
  if cpu.bcd_enabled ≠ 0 ∧ cpu.P &&& W65816_DF ≠ 0 then
    let c := if cpu.P &&& W65816_CF ≠ 0 then 0 else 1
    let cpu := { cpu with P := (cpu.P &&& NOT32 (W65816_NF ||| W65816_VF ||| W65816_ZF ||| W65816_CF)) % 256 }
    let diff := (_A cpu + 65536 - val - c) % 65536
    let al := ((_A cpu &&& 0x0F) + 256 - (val &&& 0x0F) - c) % 256
    let al := if al &&& 0x80 ≠ 0 then (al + 256 - 6) % 256 else al
    let ah := ((_A cpu >>> 4) + 256 - (val >>> 4) - (if al &&& 0x80 ≠ 0 then 1 else 0)) % 256
    let cpu :=
      if 0 = diff % 256 then { cpu with P := (cpu.P ||| W65816_ZF) % 256 }
      else if diff &&& 0x80 ≠ 0 then { cpu with P := (cpu.P ||| W65816_NF) % 256 }
      else cpu
    let cpu :=
      if (_A cpu ^^^ val) &&& (_A cpu ^^^ diff) &&& 0x80 ≠ 0 then
        { cpu with P := (cpu.P ||| W65816_VF) % 256 }
      else cpu
    let cpu := if diff &&& 0xFF00 = 0 then { cpu with P := (cpu.P ||| W65816_CF) % 256 } else cpu
    let ah := if ah &&& 0x80 ≠ 0 then (ah + 256 - 6) % 256 else ah
    set_A cpu ((ah <<< 4) ||| (al &&& 0x0F))
  else
    let diff := (_A cpu + 65536 - val - (if cpu.P &&& W65816_CF ≠ 0 then 0 else 1)) % 65536
    let cpu := { cpu with P := (cpu.P &&& NOT32 (W65816_VF ||| W65816_CF)) % 256 }
    let cpu := { cpu with P := _W65816_NZ cpu.P (diff % 256) }
    let cpu :=
      if (_A cpu ^^^ val) &&& (_A cpu ^^^ diff) &&& 0x80 ≠ 0 then
        { cpu with P := (cpu.P ||| W65816_VF) % 256 }
      else cpu
    let cpu := if diff &&& 0xFF00 = 0 then { cpu with P := (cpu.P ||| W65816_CF) % 256 } else cpu
    set_A cpu (diff &&& 0xFF)

/-- Function `_w65816_cmp` (lines 518-521); `r` and `v` are `uint8_t` parameters. -/
def _w65816_cmp (cpu : w65816_t) (r v : Nat) : w65816_t :=
  let t := (r % 256 + 65536 - v % 256) % 65536
  { cpu with P := ((_W65816_NZ cpu.P (t % 256) &&& NOT32 W65816_CF) |||
      (if t &&& 0xFF00 ≠ 0 then 0 else W65816_CF)) % 256 }

/-- Function `_w65816_asl` (lines 523-526): new state and returned byte. -/
def _w65816_asl (cpu : w65816_t) (v : Nat) : w65816_t × Nat :=
  let v := v % 256
  ({ cpu with P := ((_W65816_NZ cpu.P (v <<< 1) &&& NOT32 W65816_CF) |||
      (if v &&& 0x80 ≠ 0 then W65816_CF else 0)) % 256 }, (v <<< 1) % 256)

/-- Function `_w65816_lsr` (lines 528-531): new state and returned byte. -/
def _w65816_lsr (cpu : w65816_t) (v : Nat) : w65816_t × Nat :=
  let v := v % 256
  ({ cpu with P := ((_W65816_NZ cpu.P (v >>> 1) &&& NOT32 W65816_CF) |||
      (if v &&& 0x01 ≠ 0 then W65816_CF else 0)) % 256 }, (v >>> 1) % 256)

/-- Function `_w65816_rol` (lines 533-545): new state and returned byte. -/
def _w65816_rol (cpu : w65816_t) (v : Nat) : w65816_t × Nat :=
  let v := v % 256
  let carry : Bool := cpu.P &&& W65816_CF != 0
  let cpu := { cpu with P := (cpu.P &&& NOT32 (W65816_NF ||| W65816_ZF ||| W65816_CF)) % 256 }
  let cpu := if v &&& 0x80 ≠ 0 then { cpu with P := (cpu.P ||| W65816_CF) % 256 } else cpu
  let v := (v <<< 1) % 256
  let v := if carry then v ||| 1 else v
  ({ cpu with P := _W65816_NZ cpu.P v }, v)

/-- Function `_w65816_ror` (lines 547-559): new state and returned byte. -/
def _w65816_ror (cpu : w65816_t) (v : Nat) : w65816_t × Nat :=
  let v := v % 256
  let carry : Bool := cpu.P &&& W65816_CF != 0
  let cpu := { cpu with P := (cpu.P &&& NOT32 (W65816_NF ||| W65816_ZF ||| W65816_CF)) % 256 }
  let cpu := if v &&& 1 ≠ 0 then { cpu with P := (cpu.P ||| W65816_CF) % 256 } else cpu
  let v := v >>> 1
  let v := if carry then v ||| 0x80 else v
  ({ cpu with P := _W65816_NZ cpu.P v }, v)

/-- Function `_w65816_bit` (lines 561-568). -/
def _w65816_bit (cpu : w65816_t) (v : Nat) : w65816_t :=
  let v := v % 256
  let t := _A cpu &&& v
  let cpu := { cpu with P := (cpu.P &&& NOT32 (W65816_NF ||| W65816_VF ||| W65816_ZF)) % 256 }
  let cpu := if t = 0 then { cpu with P := (cpu.P ||| W65816_ZF) % 256 } else cpu
  { cpu with P := (cpu.P ||| (v &&& (W65816_NF ||| W65816_VF))) % 256 }

/-- Function `_w65816_xce` (lines 570-581). -/
def _w65816_xce (cpu : w65816_t) : w65816_t :=
  let e := cpu.emulation
  let cpu := { cpu with emulation := (cpu.P &&& W65816_CF) % 256 }
  let cpu := { cpu with P := (cpu.P &&& NOT32 W65816_CF) % 256 }
  let cpu := if e ≠ 0 then { cpu with P := (cpu.P ||| W65816_CF) % 256 } else cpu
  if cpu.emulation = 0 then { cpu with P := (cpu.P ||| (W65816_MF ||| W65816_XF)) % 256 } else cpu

/-- Function `_w65816_xba` (lines 583-587). -/
def _w65816_xba (cpu : w65816_t) : w65816_t :=
  let t := _A cpu
  let cpu := set_A cpu (_B cpu)
  set_B cpu t

/-- Function `w65816_init` (lines 590-598): the state after `memset` and the returned pin word;
`bcd_disabled` is the field of the init descriptor. -/
def w65816_init (bcd_disabled : Bool) : w65816_t × Nat :=
  let c : w65816_t :=
    { IR := 0, PC := 0, AD := 0, C := 0, X := 0, Y := 0, DBR := 0, PBR := 0, D := 0, P := 0,
      S := 0, PINS := 0, irq_pip := 0, nmi_pip := 0, emulation := 0, brk_flags := 0,
      bcd_enabled := 0 }
  let c := { c with emulation := 1 }
  let c := { c with P := W65816_ZF }
  let c := { c with bcd_enabled := if bcd_disabled then 0 else 1 }
  let c := { c with PINS := W65816_RW ||| W65816_VPA ||| W65816_VDA ||| W65816_RES }
  (c, c.PINS)

/-! ## Pin macros of the decoder (lines 608-645) -/

/-- Macro `_SA(addr)`: set the 16-bit address. -/
def _SA (pins addr : Nat) : Nat := (pins &&& NOT64 0xFFFF) ||| (addr &&& 0xFFFF)
/-- Macro `_GA()`. -/
def _GA (pins : Nat) : Nat := (pins &&& 0xFFFF) % 65536
/-- Macro `_SAD(addr,data)`: set the 16-bit address and the data byte. -/
def _SAD (pins addr data : Nat) : Nat :=
  (pins &&& NOT64 0xFFFFFF) ||| (((data &&& 0xFF) <<< 16) &&& 0xFF0000) ||| (addr &&& 0xFFFF)
/-- Macro `_SAL(addr)`; its only argument in the decoder is the `uint32_t` expression
`_GAL()+1`, so `(addr)<<16` is a 32-bit shift. -/
def _SAL (pins addr : Nat) : Nat :=
  (pins &&& NOT64 0xFF0000FFFF) ||| (addr &&& 0xFFFF) |||
    (((addr <<< 16) % 0x100000000) &&& 0xFF00000000)
/-- Macro `_SB(addr)`: set the bank byte. -/
def _SB (pins addr : Nat) : Nat := (pins &&& NOT64 0xFF00000000) ||| ((addr &&& 0xFF) <<< 32)
/-- Macro `_GAL()`: a `uint32_t`. -/
def _GAL (pins : Nat) : Nat := ((pins &&& 0xFFFF) ||| ((pins >>> 16) &&& 0xFF0000)) % 0x100000000
/-- Macro `_SALD(addr,data)`. -/
def _SALD (pins addr data : Nat) : Nat :=
  (pins &&& NOT64 0xFFFFFF) ||| (((data &&& 0xFF) <<< 16) &&& 0xFF0000) ||| (addr &&& 0xFFFF) |||
    ((addr >>> 16) &&& 0xFF0000)
/-- Macro `_ON(m)`. -/
def _ON (pins m : Nat) : Nat := pins ||| m
/-- Macro `_OFF(m)`. -/
def _OFF (pins m : Nat) : Nat := pins &&& NOT64 m
/-- Macro `_FETCH()`: `_SA(c->PC);_ON(W65816_VPA|W65816_VDA);`. -/
def _FETCH (c : w65816_t) (pins : Nat) : Nat := _ON (_SA pins c.PC) (W65816_VPA ||| W65816_VDA)
/-- Macro `_VPA()`. -/
def _VPA (pins : Nat) : Nat := _ON pins W65816_VPA
/-- Macro `_VDA()`. -/
def _VDA (pins : Nat) : Nat := _ON pins W65816_VDA
/-- Macro `_SD(data)`. -/
def _SD (pins data : Nat) : Nat := (pins &&& NOT64 0xFF0000) ||| (((data &&& 0xFF) <<< 16) &&& 0xFF0000)
/-- Macro `_GD()`. -/
def _GD (pins : Nat) : Nat := ((pins &&& 0xFF0000) >>> 16) % 256
/-- Macro `_RD()`. -/
def _RD (pins : Nat) : Nat := _ON pins W65816_RW
/-- Macro `_WR()`. -/
def _WR (pins : Nat) : Nat := _OFF pins W65816_RW
/-- Macro `_NZ(v)`. -/
def _NZ (c : w65816_t) (v : Nat) : w65816_t :=
  { c with P := ((c.P &&& NOT32 (W65816_NF ||| W65816_ZF)) |||
      (if v &&& 0xFF ≠ 0 then v &&& W65816_NF else W65816_ZF)) % 256 }
/-- Macro `_NZ16(v)`. -/
def _NZ16 (c : w65816_t) (v : Nat) : w65816_t :=
  { c with P := ((c.P &&& NOT32 (W65816_NF ||| W65816_ZF)) |||
      (if v &&& 0xFFFF ≠ 0 then (v >>> 8) &&& W65816_NF else W65816_ZF)) % 256 }
/-- Macro `_Z(v)`. -/
def _Z (c : w65816_t) (v : Nat) : w65816_t :=
  { c with P := ((c.P &&& NOT32 W65816_ZF) ||| (if v &&& 0xFF ≠ 0 then 0 else W65816_ZF)) % 256 }

/-! ## Instruction decoder (lines 710-3018)

The C `switch (c->IR++)` has one `case (opcode<<3)|step` per sub-cycle.  `op_XX step` is the
group of the eight cases of opcode `0xXX`; `none` stands for `assert(false)`. -/

/-- Decoder cases `(0x00<<3)|0..7`: BRK s (lines 713-720). -/
def op_00 (step : Nat) (c : w65816_t) (pins : Nat) : Option (w65816_t × Nat) :=
  match step with
  | 0 =>
    let pins := if 0 = c.brk_flags then (let pins := _VPA pins; pins) else pins
    let pins := _SA pins c.PC
    some (c, pins)
  | 1 =>
    let pins := _VDA pins
    let c := if 0 = (c.brk_flags &&& (W65816_BRK_IRQ ||| W65816_BRK_NMI)) then (let c := { c with PC := (c.PC + 1) % 65536 }; c) else c
    let pins := _SAD pins (0x0100 ||| _S c) (c.PC >>> 8)
    let c := set_S c (_S c + 255)
    let pins := if 0 = (c.brk_flags &&& W65816_BRK_RESET) then (let pins := _WR pins; pins) else pins
    let c := { c with PBR := 0 }
    some (c, pins)
  | 2 =>
    let pins := _VDA pins
    let pins := _SAD pins (0x0100 ||| _S c) c.PC
    let c := set_S c (_S c + 255)
    let pins := if 0 = (c.brk_flags &&& W65816_BRK_RESET) then (let pins := _WR pins; pins) else pins
    some (c, pins)
  | 3 =>
    let pins := _VDA pins
    let pins := _SAD pins (0x0100 ||| _S c) (c.P ||| W65816_UF)
    let c := set_S c (_S c + 255)
    let r := if c.brk_flags &&& W65816_BRK_RESET ≠ 0 then (let c := { c with AD := 0xFFFC }; (c, pins)) else (let pins := _WR pins; let c := if c.brk_flags &&& W65816_BRK_NMI ≠ 0 then (let c := { c with AD := 0xFFFA }; c) else (let c := { c with AD := 0xFFFE }; c); (c, pins))
    let c := r.1
    let pins := r.2
    some (c, pins)
  | 4 =>
    let pins := _VDA pins
    let pins := _SA pins c.AD
    let c := { c with AD := (c.AD + 1) % 65536 }
    let c := { c with P := (c.P ||| (W65816_IF ||| W65816_BF)) % 256 }
    let c := { c with P := c.P &&& W65816_DF }
    let c := { c with brk_flags := 0 }
    some (c, pins)
  | 5 =>
    let pins := _VDA pins
    let pins := _SA pins c.AD
    let c := { c with AD := _GD pins }
    some (c, pins)
  | 6 =>
    let c := { c with PC := ((_GD pins <<< 8) ||| c.AD) % 65536 }
    let pins := _FETCH c pins
    some (c, pins)
  | _ => none

/-- Decoder cases `(0x01<<3)|0..7`: ORA (d,x) (lines 722-729). -/
def op_01 (step : Nat) (c : w65816_t) (pins : Nat) : Option (w65816_t × Nat) :=
  match step with
  | 0 =>
    let pins := _VPA pins
    let pins := _SA pins c.PC
    let c := { c with PC := (c.PC + 1) % 65536 }
    some (c, pins)
  | 1 =>
    let c := { c with AD := _GD pins }
    let pins := _SA pins c.AD
    some (c, pins)
  | 2 =>
    let pins := _VDA pins
    let c := { c with AD := (c.AD + _X c) &&& 0xFF }
    let pins := _SA pins c.AD
    some (c, pins)
  | 3 =>
    let pins := _VDA pins
    let pins := _SA pins ((c.AD + 1) &&& 0xFF)
    let c := { c with AD := _GD pins }
    some (c, pins)
  | 4 =>
    let pins := _VDA pins
    let pins := _SA pins ((_GD pins <<< 8) ||| c.AD)
    some (c, pins)
  | 5 =>
    let c := set_A c (_A c ||| _GD pins)
    let c := _NZ c (_A c)
    let pins := _FETCH c pins
    some (c, pins)
  | _ => none

/-- Decoder cases `(0x02<<3)|0..7`: COP s (lines 731-738). -/
def op_02 (step : Nat) (c : w65816_t) (pins : Nat) : Option (w65816_t × Nat) :=
  match step with
  | 0 =>
    let pins := if 0 = c.brk_flags then (let pins := _VPA pins; pins) else pins
    let pins := _SA pins c.PC
    some (c, pins)
  | 1 =>
    let pins := _VDA pins
    let pins := _SAD pins (0x0100 ||| _S c) (c.PC >>> 8)
    let c := set_S c (_S c + 255)
    let pins := _WR pins
    let c := { c with PBR := 0 }
    some (c, pins)
  | 2 =>
    let pins := _VDA pins
    let pins := _SAD pins (0x0100 ||| _S c) c.PC
    let c := set_S c (_S c + 255)
    let pins := _WR pins
    some (c, pins)
  | 3 =>
    let pins := _VDA pins
    let pins := _SAD pins (0x0100 ||| _S c) (c.P ||| W65816_UF)
    let c := set_S c (_S c + 255)
    let pins := _WR pins
    let c := { c with AD := 0xFFF4 }
    some (c, pins)
  | 4 =>
    let pins := _VDA pins
    let pins := _SA pins c.AD
    let c := { c with AD := (c.AD + 1) % 65536 }
    let c := { c with P := (c.P ||| W65816_IF) % 256 }
    let c := { c with P := c.P &&& W65816_DF }
    let c := { c with brk_flags := 0 }
    some (c, pins)
  | 5 =>
    let pins := _VDA pins
    let pins := _SA pins c.AD
    let c := { c with AD := _GD pins }
    some (c, pins)
  | 6 =>
    let c := { c with PC := ((_GD pins <<< 8) ||| c.AD) % 65536 }
    some (c, pins)
  | 7 =>
    let pins := _FETCH c pins
    some (c, pins)
  | _ => none

/-- Decoder cases `(0x03<<3)|0..7`: ORA d,s (lines 740-747). -/
def op_03 (step : Nat) (c : w65816_t) (pins : Nat) : Option (w65816_t × Nat) :=
  match step with
  | 0 => some (c, pins)
  | 1 =>
    let c := set_A c (_A c ||| _GD pins)
    let c := _NZ c (_A c)
    some (c, pins)
  | 2 =>
    let pins := _FETCH c pins
    some (c, pins)
  | _ => none

/-- Decoder cases `(0x04<<3)|0..7`: TSB d (lines 749-756). -/
def op_04 (step : Nat) (c : w65816_t) (pins : Nat) : Option (w65816_t × Nat) :=
  match step with
  | 0 =>
    let pins := _VPA pins
    let pins := _SA pins c.PC
    let c := { c with PC := (c.PC + 1) % 65536 }
    some (c, pins)
  | 1 =>
    let pins := _VDA pins
    let pins := _SA pins (_GD pins)
    some (c, pins)
  | 2 =>
    let c := { c with AD := _GD pins }
    let pins := if _E c then (let pins := _WR pins; pins) else pins
    some (c, pins)
  | 3 =>
    let pins := _VDA pins
    let pins := _SD pins (_A c ||| c.AD)
    let pins := _WR pins
    let c := _Z c (_A c &&& c.AD)
    some (c, pins)
  | 4 =>
    let pins := _FETCH c pins
    some (c, pins)
  | _ => none

/-- Decoder cases `(0x05<<3)|0..7`: ORA d (lines 758-765). -/
def op_05 (step : Nat) (c : w65816_t) (pins : Nat) : Option (w65816_t × Nat) :=
  match step with
  | 0 =>
    let pins := _VPA pins
    let pins := _SA pins c.PC
    let c := { c with PC := (c.PC + 1) % 65536 }
    some (c, pins)
  | 1 =>
    let pins := _VDA pins
    let pins := _SA pins (_GD pins)
    some (c, pins)
  | 2 =>
    let c := set_A c (_A c ||| _GD pins)
    let c := _NZ c (_A c)
    let pins := _FETCH c pins
    some (c, pins)
  | _ => none

/-- Decoder cases `(0x06<<3)|0..7`: ASL d (lines 767-774). -/
def op_06 (step : Nat) (c : w65816_t) (pins : Nat) : Option (w65816_t × Nat) :=
  match step with
  | 0 =>
    let pins := _VPA pins
    let pins := _SA pins c.PC
    let c := { c with PC := (c.PC + 1) % 65536 }
    some (c, pins)
  | 1 =>
    let pins := _VDA pins
    let pins := _SA pins (_GD pins)
    some (c, pins)
  | 2 =>
    let pins := _VDA pins
    let c := { c with AD := _GD pins }
    let pins := _WR pins
    some (c, pins)
  | 3 =>
    let pins := _VDA pins
    let r := _w65816_asl c c.AD
    let c := r.1
    let pins := _SD pins r.2
    let pins := _WR pins
    some (c, pins)
  | 4 =>
    let pins := _FETCH c pins
    some (c, pins)
  | _ => none

/-- Decoder cases `(0x07<<3)|0..7`: ORA [d] (lines 776-783). -/
def op_07 (step : Nat) (c : w65816_t) (pins : Nat) : Option (w65816_t × Nat) :=
  match step with
  | 0 => some (c, pins)
  | 1 =>
    let c := set_A c (_A c ||| _GD pins)
    let c := _NZ c (_A c)
    some (c, pins)
  | 2 =>
    let pins := _FETCH c pins
    some (c, pins)
  | _ => none

/-- Decoder cases `(0x08<<3)|0..7`: PHP s (lines 785-792). -/
def op_08 (step : Nat) (c : w65816_t) (pins : Nat) : Option (w65816_t × Nat) :=
  match step with
  | 0 =>
    let pins := _SA pins c.PC
    some (c, pins)
  | 1 =>
    let pins := _VDA pins
    let pins := _SAD pins (0x0100 ||| _S c) (c.P ||| W65816_UF)
    let c := set_S c (_S c + 255)
    let pins := _WR pins
    some (c, pins)
  | 2 =>
    let pins := _FETCH c pins
    some (c, pins)
  | _ => none

/-- Decoder cases `(0x09<<3)|0..7`: ORA # (lines 794-801). -/
def op_09 (step : Nat) (c : w65816_t) (pins : Nat) : Option (w65816_t × Nat) :=
  match step with
  | 0 =>
    let pins := _VPA pins
    let pins := _SA pins c.PC
    let c := { c with PC := (c.PC + 1) % 65536 }
    some (c, pins)
  | 1 =>
    let c := set_A c (_A c ||| _GD pins)
    let c := _NZ c (_A c)
    let pins := _FETCH c pins
    some (c, pins)
  | _ => none

/-- Decoder cases `(0x0A<<3)|0..7`: ASL A (lines 803-810). -/
def op_0A (step : Nat) (c : w65816_t) (pins : Nat) : Option (w65816_t × Nat) :=
  match step with
  | 0 =>
    let pins := _SA pins c.PC
    some (c, pins)
  | 1 =>
    let r := _w65816_asl c (_A c)
    let c := set_A r.1 r.2
    let pins := _FETCH c pins
    some (c, pins)
  | _ => none

/-- Decoder cases `(0x0B<<3)|0..7`: PHD s (lines 812-819). -/
def op_0B (step : Nat) (c : w65816_t) (pins : Nat) : Option (w65816_t × Nat) :=
  match step with
  | 0 =>
    let pins := _SA pins c.PC
    some (c, pins)
  | 1 =>
    let pins := _VDA pins
    let pins := _SAD pins (0x0100 ||| _S c) (c.D >>> 8)
    let c := set_S c (_S c + 255)
    let pins := _WR pins
    some (c, pins)
  | 2 =>
    let pins := _VDA pins
    let pins := _SAD pins (0x0100 ||| _S c) c.D
    let c := set_S c (_S c + 255)
    let pins := _WR pins
    some (c, pins)
  | 3 =>
    let pins := _FETCH c pins
    some (c, pins)
  | _ => none

/-- Decoder cases `(0x0C<<3)|0..7`: TSB a (lines 821-828). -/
def op_0C (step : Nat) (c : w65816_t) (pins : Nat) : Option (w65816_t × Nat) :=
  match step with
  | 0 =>
    let pins := _VPA pins
    let pins := _SA pins c.PC
    let c := { c with PC := (c.PC + 1) % 65536 }
    some (c, pins)
  | 1 =>
    let pins := _VPA pins
    let pins := _SA pins c.PC
    let c := { c with PC := (c.PC + 1) % 65536 }
    let c := { c with AD := _GD pins }
    some (c, pins)
  | 2 =>
    let pins := _SA pins ((_GD pins <<< 8) ||| c.AD)
    some (c, pins)
  | 3 =>
    let c := { c with AD := _GD pins }
    let pins := if _E c then (let pins := _WR pins; pins) else pins
    some (c, pins)
  | 4 =>
    let pins := _VDA pins
    let pins := _SD pins (_A c ||| c.AD)
    let pins := _WR pins
    let c := _Z c (_A c &&& c.AD)
    some (c, pins)
  | 5 =>
    let pins := _FETCH c pins
    some (c, pins)
  | _ => none

/-- Decoder cases `(0x0D<<3)|0..7`: ORA a (lines 830-837). -/
def op_0D (step : Nat) (c : w65816_t) (pins : Nat) : Option (w65816_t × Nat) :=
  match step with
  | 0 =>
    let pins := _VPA pins
    let pins := _SA pins c.PC
    let c := { c with PC := (c.PC + 1) % 65536 }
    some (c, pins)
  | 1 =>
    let pins := _VPA pins
    let pins := _SA pins c.PC
    let c := { c with PC := (c.PC + 1) % 65536 }
    let c := { c with AD := _GD pins }
    some (c, pins)
  | 2 =>
    let pins := _SA pins ((_GD pins <<< 8) ||| c.AD)
    some (c, pins)
  | 3 =>
    let c := set_A c (_A c ||| _GD pins)
    let c := _NZ c (_A c)
    let pins := _FETCH c pins
    some (c, pins)
  | _ => none

/-- Decoder cases `(0x0E<<3)|0..7`: ASL a (lines 839-846). -/
def op_0E (step : Nat) (c : w65816_t) (pins : Nat) : Option (w65816_t × Nat) :=
  match step with
  | 0 =>
    let pins := _VPA pins
    let pins := _SA pins c.PC
    let c := { c with PC := (c.PC + 1) % 65536 }
    some (c, pins)
  | 1 =>
    let pins := _VPA pins
    let pins := _SA pins c.PC
    let c := { c with PC := (c.PC + 1) % 65536 }
    let c := { c with AD := _GD pins }
    some (c, pins)
  | 2 =>
    let pins := _SA pins ((_GD pins <<< 8) ||| c.AD)
    some (c, pins)
  | 3 =>
    let pins := _VDA pins
    let c := { c with AD := _GD pins }
    let pins := _WR pins
    some (c, pins)
  | 4 =>
    let pins := _VDA pins
    let r := _w65816_asl c c.AD
    let c := r.1
    let pins := _SD pins r.2
    let pins := _WR pins
    some (c, pins)
  | 5 =>
    let pins := _FETCH c pins
    some (c, pins)
  | _ => none

/-- Decoder cases `(0x0F<<3)|0..7`: ORA al (lines 848-855). -/
def op_0F (step : Nat) (c : w65816_t) (pins : Nat) : Option (w65816_t × Nat) :=
  match step with
  | 0 => some (c, pins)
  | 1 =>
    let c := set_A c (_A c ||| _GD pins)
    let c := _NZ c (_A c)
    some (c, pins)
  | 2 =>
    let pins := _FETCH c pins
    some (c, pins)
  | _ => none

/-- Decoder cases `(0x10<<3)|0..7`: BPL r (lines 857-864). -/
def op_10 (step : Nat) (c : w65816_t) (pins : Nat) : Option (w65816_t × Nat) :=
  match step with
  | 0 =>
    let pins := _VPA pins
    let pins := _SA pins c.PC
    let c := { c with PC := (c.PC + 1) % 65536 }
    some (c, pins)
  | 1 =>
    let pins := _SA pins c.PC
    let c := { c with AD := (c.PC + SEXT8 (_GD pins)) % 65536 }
    let pins := if (c.P &&& 0x80) ≠ 0x0 then (let pins := _FETCH c pins; pins) else pins
    some (c, pins)
  | 2 =>
    let pins := _SA pins ((c.PC &&& 0xFF00) ||| (c.AD &&& 0x00FF))
    let r := if (c.AD &&& 0xFF00) = (c.PC &&& 0xFF00) then (let c := { c with PC := c.AD }; let c := { c with irq_pip := c.irq_pip >>> 1 }; let c := { c with nmi_pip := c.nmi_pip >>> 1 }; let pins := _FETCH c pins; (c, pins)) else (c, pins)
    let c := r.1
    let pins := r.2
    some (c, pins)
  | 3 =>
    let c := { c with PC := c.AD }
    let pins := _FETCH c pins
    some (c, pins)
  | _ => none

/-- Decoder cases `(0x11<<3)|0..7`: ORA (d),y (lines 866-873). -/
def op_11 (step : Nat) (c : w65816_t) (pins : Nat) : Option (w65816_t × Nat) :=
  match step with
  | 0 =>
    let pins := _VPA pins
    let pins := _SA pins c.PC
    let c := { c with PC := (c.PC + 1) % 65536 }
    some (c, pins)
  | 1 =>
    let pins := _VDA pins
    let c := { c with AD := _GD pins }
    let pins := _SA pins c.AD
    some (c, pins)
  | 2 =>
    let pins := _VDA pins
    let pins := _SA pins ((c.AD + 1) &&& 0xFF)
    let c := { c with AD := _GD pins }
    some (c, pins)
  | 3 =>
    let c := { c with AD := (c.AD ||| (_GD pins <<< 8)) % 65536 }
    let pins := _SA pins ((c.AD &&& 0xFF00) ||| ((c.AD + _Y c) &&& 0xFF))
    let c := { c with IR := (c.IR + (NOT32 (SUB32 (c.AD >>> 8) ((c.AD + _Y c) >>> 8)) &&& 1)) % 65536 }
    some (c, pins)
  | 4 =>
    let pins := _VDA pins
    let pins := _SA pins (c.AD + _Y c)
    some (c, pins)
  | 5 =>
    let c := set_A c (_A c ||| _GD pins)
    let c := _NZ c (_A c)
    let pins := _FETCH c pins
    some (c, pins)
  | _ => none

/-- Decoder cases `(0x12<<3)|0..7`: ORA (d) (lines 875-882). -/
def op_12 (step : Nat) (c : w65816_t) (pins : Nat) : Option (w65816_t × Nat) :=
  match step with
  | 0 => some (c, pins)
  | 1 =>
    let c := set_A c (_A c ||| _GD pins)
    let c := _NZ c (_A c)
    some (c, pins)
  | 2 =>
    let pins := _FETCH c pins
    some (c, pins)
  | _ => none

/-- Decoder cases `(0x13<<3)|0..7`: ORA (d,s),y (lines 884-891). -/
def op_13 (step : Nat) (c : w65816_t) (pins : Nat) : Option (w65816_t × Nat) :=
  match step with
  | 0 => some (c, pins)
  | 1 =>
    let c := set_A c (_A c ||| _GD pins)
    let c := _NZ c (_A c)
    some (c, pins)
  | 2 =>
    let pins := _FETCH c pins
    some (c, pins)
  | _ => none

/-- Decoder cases `(0x14<<3)|0..7`: TRB d (lines 893-900). -/
def op_14 (step : Nat) (c : w65816_t) (pins : Nat) : Option (w65816_t × Nat) :=
  match step with
  | 0 =>
    let pins := _VPA pins
    let pins := _SA pins c.PC
    let c := { c with PC := (c.PC + 1) % 65536 }
    some (c, pins)
  | 1 =>
    let pins := _VDA pins
    let pins := _SA pins (_GD pins)
    some (c, pins)
  | 2 =>
    let c := { c with AD := _GD pins }
    let pins := if _E c then (let pins := _WR pins; pins) else pins
    some (c, pins)
  | 3 =>
    let pins := _VDA pins
    let pins := _SD pins (NOT32 (_A c) &&& c.AD)
    let pins := _WR pins
    let c := _Z c (_A c &&& c.AD)
    some (c, pins)
  | 4 =>
    let pins := _FETCH c pins
    some (c, pins)
  | _ => none

/-- Decoder cases `(0x15<<3)|0..7`: ORA d,x (lines 902-909). -/
def op_15 (step : Nat) (c : w65816_t) (pins : Nat) : Option (w65816_t × Nat) :=
  match step with
  | 0 =>
    let pins := _VPA pins
    let pins := _SA pins c.PC
    let c := { c with PC := (c.PC + 1) % 65536 }
    some (c, pins)
  | 1 =>
    let c := { c with AD := _GD pins }
    let pins := _SA pins c.AD
    some (c, pins)
  | 2 =>
    let pins := _VDA pins
    let pins := if _E c then (let pins := _SA pins ((c.AD + _X c) &&& 0x00FF); pins) else (let pins := _SA pins (c.AD + _X c); pins)
    some (c, pins)
  | 3 =>
    let c := set_A c (_A c ||| _GD pins)
    let c := _NZ c (_A c)
    let pins := _FETCH c pins
    some (c, pins)
  | _ => none

/-- Decoder cases `(0x16<<3)|0..7`: ASL d,x (lines 911-918). -/
def op_16 (step : Nat) (c : w65816_t) (pins : Nat) : Option (w65816_t × Nat) :=
  match step with
  | 0 =>
    let pins := _VPA pins
    let pins := _SA pins c.PC
    let c := { c with PC := (c.PC + 1) % 65536 }
    some (c, pins)
  | 1 =>
    let c := { c with AD := _GD pins }
    let pins := _SA pins c.AD
    some (c, pins)
  | 2 =>
    let pins := _VDA pins
    let pins := if _E c then (let pins := _SA pins ((c.AD + _X c) &&& 0x00FF); pins) else (let pins := _SA pins (c.AD + _X c); pins)
    some (c, pins)
  | 3 =>
    let pins := _VDA pins
    let c := { c with AD := _GD pins }
    let pins := _WR pins
    some (c, pins)
  | 4 =>
    let pins := _VDA pins
    let r := _w65816_asl c c.AD
    let c := r.1
    let pins := _SD pins r.2
    let pins := _WR pins
    some (c, pins)
  | 5 =>
    let pins := _FETCH c pins
    some (c, pins)
  | _ => none

/-- Decoder cases `(0x17<<3)|0..7`: ORA [d],y (lines 920-927). -/
def op_17 (step : Nat) (c : w65816_t) (pins : Nat) : Option (w65816_t × Nat) :=
  match step with
  | 0 => some (c, pins)
  | 1 =>
    let c := set_A c (_A c ||| _GD pins)
    let c := _NZ c (_A c)
    some (c, pins)
  | 2 =>
    let pins := _FETCH c pins
    some (c, pins)
  | _ => none

/-- Decoder cases `(0x18<<3)|0..7`: CLE i (lines 929-936). -/
def op_18 (step : Nat) (c : w65816_t) (pins : Nat) : Option (w65816_t × Nat) :=
  match step with
  | 0 =>
    let pins := _SA pins c.PC
    some (c, pins)
  | 1 =>
    let c := { c with P := (c.P &&& NOT32 0x1) % 256 }
    let pins := _FETCH c pins
    some (c, pins)
  | _ => none

/-- Decoder cases `(0x19<<3)|0..7`: ORA a,y (lines 938-945). -/
def op_19 (step : Nat) (c : w65816_t) (pins : Nat) : Option (w65816_t × Nat) :=
  match step with
  | 0 =>
    let pins := _VPA pins
    let pins := _SA pins c.PC
    let c := { c with PC := (c.PC + 1) % 65536 }
    some (c, pins)
  | 1 =>
    let pins := _VPA pins
    let pins := _SA pins c.PC
    let c := { c with PC := (c.PC + 1) % 65536 }
    let c := { c with AD := _GD pins }
    some (c, pins)
  | 2 =>
    let c := { c with AD := (c.AD ||| (_GD pins <<< 8)) % 65536 }
    let pins := _SA pins ((c.AD &&& 0xFF00) ||| ((c.AD + _Y c) &&& 0xFF))
    let c := { c with IR := (c.IR + (NOT32 (SUB32 (c.AD >>> 8) ((c.AD + _Y c) >>> 8)) &&& 1)) % 65536 }
    some (c, pins)
  | 3 =>
    let pins := _VDA pins
    let pins := _SA pins (c.AD + _Y c)
    some (c, pins)
  | 4 =>
    let c := set_A c (_A c ||| _GD pins)
    let c := _NZ c (_A c)
    let pins := _FETCH c pins
    some (c, pins)
  | _ => none

/-- Decoder cases `(0x1A<<3)|0..7`: INC A (lines 947-954). -/
def op_1A (step : Nat) (c : w65816_t) (pins : Nat) : Option (w65816_t × Nat) :=
  match step with
  | 0 =>
    let pins := _SA pins c.PC
    some (c, pins)
  | 1 =>
    let c := set_A c (_A c + 1)
    let c := _NZ c (_A c)
    let pins := _FETCH c pins
    some (c, pins)
  | _ => none

/-- Decoder cases `(0x1B<<3)|0..7`: TCS i (lines 956-963). -/
def op_1B (step : Nat) (c : w65816_t) (pins : Nat) : Option (w65816_t × Nat) :=
  match step with
  | 0 =>
    let pins := _SA pins c.PC
    some (c, pins)
  | 1 =>
    let c := { c with S := c.C }
    let pins := _FETCH c pins
    some (c, pins)
  | _ => none

/-- Decoder cases `(0x1C<<3)|0..7`: TRB a (lines 965-972). -/
def op_1C (step : Nat) (c : w65816_t) (pins : Nat) : Option (w65816_t × Nat) :=
  match step with
  | 0 =>
    let pins := _VPA pins
    let pins := _SA pins c.PC
    let c := { c with PC := (c.PC + 1) % 65536 }
    some (c, pins)
  | 1 =>
    let pins := _VPA pins
    let pins := _SA pins c.PC
    let c := { c with PC := (c.PC + 1) % 65536 }
    let c := { c with AD := _GD pins }
    some (c, pins)
  | 2 =>
    let pins := _SA pins ((_GD pins <<< 8) ||| c.AD)
    some (c, pins)
  | 3 =>
    let c := { c with AD := _GD pins }
    let pins := if _E c then (let pins := _WR pins; pins) else pins
    some (c, pins)
  | 4 =>
    let pins := _VDA pins
    let pins := _SD pins (NOT32 (_A c) &&& c.AD)
    let pins := _WR pins
    let c := _Z c (_A c &&& c.AD)
    some (c, pins)
  | 5 =>
    let pins := _FETCH c pins
    some (c, pins)
  | _ => none

/-- Decoder cases `(0x1D<<3)|0..7`: ORA a,x (lines 974-981). -/
def op_1D (step : Nat) (c : w65816_t) (pins : Nat) : Option (w65816_t × Nat) :=
  match step with
  | 0 =>
    let pins := _VPA pins
    let pins := _SA pins c.PC
    let c := { c with PC := (c.PC + 1) % 65536 }
    some (c, pins)
  | 1 =>
    let pins := _VPA pins
    let pins := _SA pins c.PC
    let c := { c with PC := (c.PC + 1) % 65536 }
    let c := { c with AD := _GD pins }
    some (c, pins)
  | 2 =>
    let c := { c with AD := (c.AD ||| (_GD pins <<< 8)) % 65536 }
    let pins := _SA pins ((c.AD &&& 0xFF00) ||| ((c.AD + _X c) &&& 0xFF))
    let c := { c with IR := (c.IR + (NOT32 (SUB32 (c.AD >>> 8) ((c.AD + _X c) >>> 8)) &&& 1)) % 65536 }
    some (c, pins)
  | 3 =>
    let pins := _VDA pins
    let pins := _SA pins (c.AD + _X c)
    some (c, pins)
  | 4 =>
    let c := set_A c (_A c ||| _GD pins)
    let c := _NZ c (_A c)
    let pins := _FETCH c pins
    some (c, pins)
  | _ => none

/-- Decoder cases `(0x1E<<3)|0..7`: ASL a,x (lines 983-990). -/
def op_1E (step : Nat) (c : w65816_t) (pins : Nat) : Option (w65816_t × Nat) :=
  match step with
  | 0 =>
    let pins := _VPA pins
    let pins := _SA pins c.PC
    let c := { c with PC := (c.PC + 1) % 65536 }
    some (c, pins)
  | 1 =>
    let pins := _VPA pins
    let pins := _SA pins c.PC
    let c := { c with PC := (c.PC + 1) % 65536 }
    let c := { c with AD := _GD pins }
    some (c, pins)
  | 2 =>
    let c := { c with AD := (c.AD ||| (_GD pins <<< 8)) % 65536 }
    let pins := _SA pins ((c.AD &&& 0xFF00) ||| ((c.AD + _X c) &&& 0xFF))
    some (c, pins)
  | 3 =>
    let pins := _VDA pins
    let pins := _SA pins (c.AD + _X c)
    some (c, pins)
  | 4 =>
    let pins := _VDA pins
    let c := { c with AD := _GD pins }
    let pins := _WR pins
    some (c, pins)
  | 5 =>
    let pins := _VDA pins
    let r := _w65816_asl c c.AD
    let c := r.1
    let pins := _SD pins r.2
    let pins := _WR pins
    some (c, pins)
  | 6 =>
    let pins := _FETCH c pins
    some (c, pins)
  | _ => none

/-- Decoder cases `(0x1F<<3)|0..7`: ORA al,x (lines 992-999). -/
def op_1F (step : Nat) (c : w65816_t) (pins : Nat) : Option (w65816_t × Nat) :=
  match step with
  | 0 => some (c, pins)
  | 1 =>
    let c := set_A c (_A c ||| _GD pins)
    let c := _NZ c (_A c)
    some (c, pins)
  | 2 =>
    let pins := _FETCH c pins
    some (c, pins)
  | _ => none

/-- Decoder cases `(0x20<<3)|0..7`: JSR a (lines 1001-1008). -/
def op_20 (step : Nat) (c : w65816_t) (pins : Nat) : Option (w65816_t × Nat) :=
  match step with
  | 0 =>
    let pins := _VPA pins
    let pins := _SA pins c.PC
    let c := { c with PC := (c.PC + 1) % 65536 }
    some (c, pins)
  | 1 =>
    let pins := _SA pins (0x0100 ||| _S c)
    let c := { c with AD := _GD pins }
    some (c, pins)
  | 2 =>
    let pins := _VDA pins
    let pins := _SAD pins (0x0100 ||| _S c) (c.PC >>> 8)
    let c := set_S c (_S c + 255)
    let pins := _WR pins
    some (c, pins)
  | 3 =>
    let pins := _VDA pins
    let pins := _SAD pins (0x0100 ||| _S c) c.PC
    let c := set_S c (_S c + 255)
    let pins := _WR pins
    some (c, pins)
  | 4 =>
    let pins := _VPA pins
    let pins := _SA pins c.PC
    some (c, pins)
  | 5 =>
    let c := { c with PC := ((_GD pins <<< 8) ||| c.AD) % 65536 }
    let pins := _FETCH c pins
    some (c, pins)
  | _ => none

/-- Decoder cases `(0x21<<3)|0..7`: AND (d,x) (lines 1010-1017). -/
def op_21 (step : Nat) (c : w65816_t) (pins : Nat) : Option (w65816_t × Nat) :=
  match step with
  | 0 =>
    let pins := _VPA pins
    let pins := _SA pins c.PC
    let c := { c with PC := (c.PC + 1) % 65536 }
    some (c, pins)
  | 1 =>
    let c := { c with AD := _GD pins }
    let pins := _SA pins c.AD
    some (c, pins)
  | 2 =>
    let pins := _VDA pins
    let c := { c with AD := (c.AD + _X c) &&& 0xFF }
    let pins := _SA pins c.AD
    some (c, pins)
  | 3 =>
    let pins := _VDA pins
    let pins := _SA pins ((c.AD + 1) &&& 0xFF)
    let c := { c with AD := _GD pins }
    some (c, pins)
  | 4 =>
    let pins := _VDA pins
    let pins := _SA pins ((_GD pins <<< 8) ||| c.AD)
    some (c, pins)
  | 5 =>
    let c := set_A c (_A c &&& _GD pins)
    let c := _NZ c (_A c)
    let pins := _FETCH c pins
    some (c, pins)
  | _ => none

/-- Decoder cases `(0x22<<3)|0..7`: JSL al (unimpl) (lines 1019-1026). -/
def op_22 (step : Nat) (c : w65816_t) (pins : Nat) : Option (w65816_t × Nat) :=
  match step with
  | 0 => some (c, pins)
  | 1 => some (c, pins)
  | 2 =>
    let pins := _FETCH c pins
    some (c, pins)
  | _ => none

/-- Decoder cases `(0x23<<3)|0..7`: AND d,s (lines 1028-1035). -/
def op_23 (step : Nat) (c : w65816_t) (pins : Nat) : Option (w65816_t × Nat) :=
  match step with
  | 0 => some (c, pins)
  | 1 =>
    let c := set_A c (_A c &&& _GD pins)
    let c := _NZ c (_A c)
    some (c, pins)
  | 2 =>
    let pins := _FETCH c pins
    some (c, pins)
  | _ => none

/-- Decoder cases `(0x24<<3)|0..7`: BIT d (lines 1037-1044). -/
def op_24 (step : Nat) (c : w65816_t) (pins : Nat) : Option (w65816_t × Nat) :=
  match step with
  | 0 =>
    let pins := _VPA pins
    let pins := _SA pins c.PC
    let c := { c with PC := (c.PC + 1) % 65536 }
    some (c, pins)
  | 1 =>
    let pins := _VDA pins
    let pins := _SA pins (_GD pins)
    some (c, pins)
  | 2 =>
    let c := _w65816_bit c (_GD pins)
    let pins := _FETCH c pins
    some (c, pins)
  | _ => none

/-- Decoder cases `(0x25<<3)|0..7`: AND d (lines 1046-1053). -/
def op_25 (step : Nat) (c : w65816_t) (pins : Nat) : Option (w65816_t × Nat) :=
  match step with
  | 0 =>
    let pins := _VPA pins
    let pins := _SA pins c.PC
    let c := { c with PC := (c.PC + 1) % 65536 }
    some (c, pins)
  | 1 =>
    let pins := _VDA pins
    let pins := _SA pins (_GD pins)
    some (c, pins)
  | 2 =>
    let c := set_A c (_A c &&& _GD pins)
    let c := _NZ c (_A c)
    let pins := _FETCH c pins
    some (c, pins)
  | _ => none

/-- Decoder cases `(0x26<<3)|0..7`: ROL d (lines 1055-1062). -/
def op_26 (step : Nat) (c : w65816_t) (pins : Nat) : Option (w65816_t × Nat) :=
  match step with
  | 0 =>
    let pins := _VPA pins
    let pins := _SA pins c.PC
    let c := { c with PC := (c.PC + 1) % 65536 }
    some (c, pins)
  | 1 =>
    let pins := _VDA pins
    let pins := _SA pins (_GD pins)
    some (c, pins)
  | 2 =>
    let pins := _VDA pins
    let c := { c with AD := _GD pins }
    let pins := _WR pins
    some (c, pins)
  | 3 =>
    let pins := _VDA pins
    let r := _w65816_rol c c.AD
    let c := r.1
    let pins := _SD pins r.2
    let pins := _WR pins
    some (c, pins)
  | 4 =>
    let pins := _FETCH c pins
    some (c, pins)
  | _ => none

/-- Decoder cases `(0x27<<3)|0..7`: AND [d] (lines 1064-1071). -/
def op_27 (step : Nat) (c : w65816_t) (pins : Nat) : Option (w65816_t × Nat) :=
  match step with
  | 0 => some (c, pins)
  | 1 =>
    let c := set_A c (_A c &&& _GD pins)
    let c := _NZ c (_A c)
    some (c, pins)
  | 2 =>
    let pins := _FETCH c pins
    some (c, pins)
  | _ => none

/-- Decoder cases `(0x28<<3)|0..7`: PLP s (lines 1073-1080). -/
def op_28 (step : Nat) (c : w65816_t) (pins : Nat) : Option (w65816_t × Nat) :=
  match step with
  | 0 =>
    let pins := _SA pins c.PC
    some (c, pins)
  | 1 =>
    let pins := _SA pins c.PC
    some (c, pins)
  | 2 =>
    let pins := _VDA pins
    let c := set_S c (_S c + 1)
    let pins := _SA pins (0x0100 ||| _S c)
    some (c, pins)
  | 3 =>
    let c := { c with P := ((_GD pins ||| W65816_BF) &&& NOT32 W65816_UF) % 256 }
    let pins := _FETCH c pins
    some (c, pins)
  | _ => none

/-- Decoder cases `(0x29<<3)|0..7`: AND # (lines 1082-1089). -/
def op_29 (step : Nat) (c : w65816_t) (pins : Nat) : Option (w65816_t × Nat) :=
  match step with
  | 0 =>
    let pins := _VPA pins
    let pins := _SA pins c.PC
    let c := { c with PC := (c.PC + 1) % 65536 }
    some (c, pins)
  | 1 =>
    let c := set_A c (_A c &&& _GD pins)
    let c := _NZ c (_A c)
    let pins := _FETCH c pins
    some (c, pins)
  | _ => none

/-- Decoder cases `(0x2A<<3)|0..7`: ROL A (lines 1091-1098). -/
def op_2A (step : Nat) (c : w65816_t) (pins : Nat) : Option (w65816_t × Nat) :=
  match step with
  | 0 =>
    let pins := _SA pins c.PC
    some (c, pins)
  | 1 =>
    let r := _w65816_rol c (_A c)
    let c := set_A r.1 r.2
    let pins := _FETCH c pins
    some (c, pins)
  | _ => none

/-- Decoder cases `(0x2B<<3)|0..7`: PLD s (lines 1100-1107). -/
def op_2B (step : Nat) (c : w65816_t) (pins : Nat) : Option (w65816_t × Nat) :=
  match step with
  | 0 =>
    let pins := _SA pins c.PC
    some (c, pins)
  | 1 =>
    let pins := _SA pins c.PC
    some (c, pins)
  | 2 =>
    let pins := _VDA pins
    let pins := _SA pins (0x0100 ||| _S c)
    let c := set_S c (_S c + 1)
    some (c, pins)
  | 3 =>
    let pins := _VDA pins
    let pins := _SA pins (0x0100 ||| _S c)
    let c := { c with AD := _GD pins }
    some (c, pins)
  | 4 =>
    let c := { c with D := ((_GD pins <<< 8) ||| c.AD) % 65536 }
    let pins := _FETCH c pins
    some (c, pins)
  | _ => none

/-- Decoder cases `(0x2C<<3)|0..7`: BIT a (lines 1109-1116). -/
def op_2C (step : Nat) (c : w65816_t) (pins : Nat) : Option (w65816_t × Nat) :=
  match step with
  | 0 =>
    let pins := _VPA pins
    let pins := _SA pins c.PC
    let c := { c with PC := (c.PC + 1) % 65536 }
    some (c, pins)
  | 1 =>
    let pins := _VPA pins
    let pins := _SA pins c.PC
    let c := { c with PC := (c.PC + 1) % 65536 }
    let c := { c with AD := _GD pins }
    some (c, pins)
  | 2 =>
    let pins := _SA pins ((_GD pins <<< 8) ||| c.AD)
    some (c, pins)
  | 3 =>
    let c := _w65816_bit c (_GD pins)
    let pins := _FETCH c pins
    some (c, pins)
  | _ => none

/-- Decoder cases `(0x2D<<3)|0..7`: AND a (lines 1118-1125). -/
def op_2D (step : Nat) (c : w65816_t) (pins : Nat) : Option (w65816_t × Nat) :=
  match step with
  | 0 =>
    let pins := _VPA pins
    let pins := _SA pins c.PC
    let c := { c with PC := (c.PC + 1) % 65536 }
    some (c, pins)
  | 1 =>
    let pins := _VPA pins
    let pins := _SA pins c.PC
    let c := { c with PC := (c.PC + 1) % 65536 }
    let c := { c with AD := _GD pins }
    some (c, pins)
  | 2 =>
    let pins := _SA pins ((_GD pins <<< 8) ||| c.AD)
    some (c, pins)
  | 3 =>
    let c := set_A c (_A c &&& _GD pins)
    let c := _NZ c (_A c)
    let pins := _FETCH c pins
    some (c, pins)
  | _ => none

/-- Decoder cases `(0x2E<<3)|0..7`: ROL a (lines 1127-1134). -/
def op_2E (step : Nat) (c : w65816_t) (pins : Nat) : Option (w65816_t × Nat) :=
  match step with
  | 0 =>
    let pins := _VPA pins
    let pins := _SA pins c.PC
    let c := { c with PC := (c.PC + 1) % 65536 }
    some (c, pins)
  | 1 =>
    let pins := _VPA pins
    let pins := _SA pins c.PC
    let c := { c with PC := (c.PC + 1) % 65536 }
    let c := { c with AD := _GD pins }
    some (c, pins)
  | 2 =>
    let pins := _SA pins ((_GD pins <<< 8) ||| c.AD)
    some (c, pins)
  | 3 =>
    let pins := _VDA pins
    let c := { c with AD := _GD pins }
    let pins := _WR pins
    some (c, pins)
  | 4 =>
    let pins := _VDA pins
    let r := _w65816_rol c c.AD
    let c := r.1
    let pins := _SD pins r.2
    let pins := _WR pins
    some (c, pins)
  | 5 =>
    let pins := _FETCH c pins
    some (c, pins)
  | _ => none

/-- Decoder cases `(0x2F<<3)|0..7`: AND al (lines 1136-1143). -/
def op_2F (step : Nat) (c : w65816_t) (pins : Nat) : Option (w65816_t × Nat) :=
  match step with
  | 0 => some (c, pins)
  | 1 =>
    let c := set_A c (_A c &&& _GD pins)
    let c := _NZ c (_A c)
    some (c, pins)
  | 2 =>
    let pins := _FETCH c pins
    some (c, pins)
  | _ => none

/-- Decoder cases `(0x30<<3)|0..7`: BMI r (lines 1145-1152). -/
def op_30 (step : Nat) (c : w65816_t) (pins : Nat) : Option (w65816_t × Nat) :=
  match step with
  | 0 =>
    let pins := _VPA pins
    let pins := _SA pins c.PC
    let c := { c with PC := (c.PC + 1) % 65536 }
    some (c, pins)
  | 1 =>
    let pins := _SA pins c.PC
    let c := { c with AD := (c.PC + SEXT8 (_GD pins)) % 65536 }
    let pins := if (c.P &&& 0x80) ≠ 0x80 then (let pins := _FETCH c pins; pins) else pins
    some (c, pins)
  | 2 =>
    let pins := _SA pins ((c.PC &&& 0xFF00) ||| (c.AD &&& 0x00FF))
    let r := if (c.AD &&& 0xFF00) = (c.PC &&& 0xFF00) then (let c := { c with PC := c.AD }; let c := { c with irq_pip := c.irq_pip >>> 1 }; let c := { c with nmi_pip := c.nmi_pip >>> 1 }; let pins := _FETCH c pins; (c, pins)) else (c, pins)
    let c := r.1
    let pins := r.2
    some (c, pins)
  | 3 =>
    let c := { c with PC := c.AD }
    let pins := _FETCH c pins
    some (c, pins)
  | _ => none

/-- Decoder cases `(0x31<<3)|0..7`: AND (d),y (lines 1154-1161). -/
def op_31 (step : Nat) (c : w65816_t) (pins : Nat) : Option (w65816_t × Nat) :=
  match step with
  | 0 =>
    let pins := _VPA pins
    let pins := _SA pins c.PC
    let c := { c with PC := (c.PC + 1) % 65536 }
    some (c, pins)
  | 1 =>
    let pins := _VDA pins
    let c := { c with AD := _GD pins }
    let pins := _SA pins c.AD
    some (c, pins)
  | 2 =>
    let pins := _VDA pins
    let pins := _SA pins ((c.AD + 1) &&& 0xFF)
    let c := { c with AD := _GD pins }
    some (c, pins)
  | 3 =>
    let c := { c with AD := (c.AD ||| (_GD pins <<< 8)) % 65536 }
    let pins := _SA pins ((c.AD &&& 0xFF00) ||| ((c.AD + _Y c) &&& 0xFF))
    let c := { c with IR := (c.IR + (NOT32 (SUB32 (c.AD >>> 8) ((c.AD + _Y c) >>> 8)) &&& 1)) % 65536 }
    some (c, pins)
  | 4 =>
    let pins := _VDA pins
    let pins := _SA pins (c.AD + _Y c)
    some (c, pins)
  | 5 =>
    let c := set_A c (_A c &&& _GD pins)
    let c := _NZ c (_A c)
    let pins := _FETCH c pins
    some (c, pins)
  | _ => none

/-- Decoder cases `(0x32<<3)|0..7`: AND (d) (lines 1163-1170). -/
def op_32 (step : Nat) (c : w65816_t) (pins : Nat) : Option (w65816_t × Nat) :=
  match step with
  | 0 => some (c, pins)
  | 1 =>
    let c := set_A c (_A c &&& _GD pins)
    let c := _NZ c (_A c)
    some (c, pins)
  | 2 =>
    let pins := _FETCH c pins
    some (c, pins)
  | _ => none

/-- Decoder cases `(0x33<<3)|0..7`: AND (d,s),y (lines 1172-1179). -/
def op_33 (step : Nat) (c : w65816_t) (pins : Nat) : Option (w65816_t × Nat) :=
  match step with
  | 0 => some (c, pins)
  | 1 =>
    let c := set_A c (_A c &&& _GD pins)
    let c := _NZ c (_A c)
    some (c, pins)
  | 2 =>
    let pins := _FETCH c pins
    some (c, pins)
  | _ => none

/-- Decoder cases `(0x34<<3)|0..7`: BIT d,x (lines 1181-1188). -/
def op_34 (step : Nat) (c : w65816_t) (pins : Nat) : Option (w65816_t × Nat) :=
  match step with
  | 0 =>
    let pins := _VPA pins
    let pins := _SA pins c.PC
    let c := { c with PC := (c.PC + 1) % 65536 }
    some (c, pins)
  | 1 =>
    let c := { c with AD := _GD pins }
    let pins := _SA pins c.AD
    some (c, pins)
  | 2 =>
    let pins := _VDA pins
    let pins := if _E c then (let pins := _SA pins ((c.AD + _X c) &&& 0x00FF); pins) else (let pins := _SA pins (c.AD + _X c); pins)
    some (c, pins)
  | 3 =>
    let c := _w65816_bit c (_GD pins)
    let pins := _FETCH c pins
    some (c, pins)
  | _ => none

/-- Decoder cases `(0x35<<3)|0..7`: AND d,x (lines 1190-1197). -/
def op_35 (step : Nat) (c : w65816_t) (pins : Nat) : Option (w65816_t × Nat) :=
  match step with
  | 0 =>
    let pins := _VPA pins
    let pins := _SA pins c.PC
    let c := { c with PC := (c.PC + 1) % 65536 }
    some (c, pins)
  | 1 =>
    let c := { c with AD := _GD pins }
    let pins := _SA pins c.AD
    some (c, pins)
  | 2 =>
    let pins := _VDA pins
    let pins := if _E c then (let pins := _SA pins ((c.AD + _X c) &&& 0x00FF); pins) else (let pins := _SA pins (c.AD + _X c); pins)
    some (c, pins)
  | 3 =>
    let c := set_A c (_A c &&& _GD pins)
    let c := _NZ c (_A c)
    let pins := _FETCH c pins
    some (c, pins)
  | _ => none

/-- Decoder cases `(0x36<<3)|0..7`: ROL d,x (lines 1199-1206). -/
def op_36 (step : Nat) (c : w65816_t) (pins : Nat) : Option (w65816_t × Nat) :=
  match step with
  | 0 =>
    let pins := _VPA pins
    let pins := _SA pins c.PC
    let c := { c with PC := (c.PC + 1) % 65536 }
    some (c, pins)
  | 1 =>
    let c := { c with AD := _GD pins }
    let pins := _SA pins c.AD
    some (c, pins)
  | 2 =>
    let pins := _VDA pins
    let pins := if _E c then (let pins := _SA pins ((c.AD + _X c) &&& 0x00FF); pins) else (let pins := _SA pins (c.AD + _X c); pins)
    some (c, pins)
  | 3 =>
    let pins := _VDA pins
    let c := { c with AD := _GD pins }
    let pins := _WR pins
    some (c, pins)
  | 4 =>
    let pins := _VDA pins
    let r := _w65816_rol c c.AD
    let c := r.1
    let pins := _SD pins r.2
    let pins := _WR pins
    some (c, pins)
  | 5 =>
    let pins := _FETCH c pins
    some (c, pins)
  | _ => none

/-- Decoder cases `(0x37<<3)|0..7`: AND [d],y (lines 1208-1215). -/
def op_37 (step : Nat) (c : w65816_t) (pins : Nat) : Option (w65816_t × Nat) :=
  match step with
  | 0 => some (c, pins)
  | 1 =>
    let c := set_A c (_A c &&& _GD pins)
    let c := _NZ c (_A c)
    some (c, pins)
  | 2 =>
    let pins := _FETCH c pins
    some (c, pins)
  | _ => none

/-- Decoder cases `(0x38<<3)|0..7`: SEE i (lines 1217-1224). -/
def op_38 (step : Nat) (c : w65816_t) (pins : Nat) : Option (w65816_t × Nat) :=
  match step with
  | 0 =>
    let pins := _SA pins c.PC
    some (c, pins)
  | 1 =>
    let c := { c with P := (c.P ||| 0x1) % 256 }
    let pins := _FETCH c pins
    some (c, pins)
  | _ => none

/-- Decoder cases `(0x39<<3)|0..7`: AND a,y (lines 1226-1233). -/
def op_39 (step : Nat) (c : w65816_t) (pins : Nat) : Option (w65816_t × Nat) :=
  match step with
  | 0 =>
    let pins := _VPA pins
    let pins := _SA pins c.PC
    let c := { c with PC := (c.PC + 1) % 65536 }
    some (c, pins)
  | 1 =>
    let pins := _VPA pins
    let pins := _SA pins c.PC
    let c := { c with PC := (c.PC + 1) % 65536 }
    let c := { c with AD := _GD pins }
    some (c, pins)
  | 2 =>
    let c := { c with AD := (c.AD ||| (_GD pins <<< 8)) % 65536 }
    let pins := _SA pins ((c.AD &&& 0xFF00) ||| ((c.AD + _Y c) &&& 0xFF))
    let c := { c with IR := (c.IR + (NOT32 (SUB32 (c.AD >>> 8) ((c.AD + _Y c) >>> 8)) &&& 1)) % 65536 }
    some (c, pins)
  | 3 =>
    let pins := _VDA pins
    let pins := _SA pins (c.AD + _Y c)
    some (c, pins)
  | 4 =>
    let c := set_A c (_A c &&& _GD pins)
    let c := _NZ c (_A c)
    let pins := _FETCH c pins
    some (c, pins)
  | _ => none

/-- Decoder cases `(0x3A<<3)|0..7`: DEC A (lines 1235-1242). -/
def op_3A (step : Nat) (c : w65816_t) (pins : Nat) : Option (w65816_t × Nat) :=
  match step with
  | 0 =>
    let pins := _SA pins c.PC
    some (c, pins)
  | 1 =>
    let c := set_A c (_A c + 255)
    let c := _NZ c (_A c)
    let pins := _FETCH c pins
    some (c, pins)
  | _ => none

/-- Decoder cases `(0x3B<<3)|0..7`: TSC i (lines 1244-1251). -/
def op_3B (step : Nat) (c : w65816_t) (pins : Nat) : Option (w65816_t × Nat) :=
  match step with
  | 0 =>
    let pins := _SA pins c.PC
    some (c, pins)
  | 1 =>
    let c := { c with C := c.S }
    let c := _NZ c c.C
    some (c, pins)
  | 2 =>
    let pins := _FETCH c pins
    some (c, pins)
  | _ => none

/-- Decoder cases `(0x3C<<3)|0..7`: BIT a,x (lines 1253-1260). -/
def op_3C (step : Nat) (c : w65816_t) (pins : Nat) : Option (w65816_t × Nat) :=
  match step with
  | 0 =>
    let pins := _VPA pins
    let pins := _SA pins c.PC
    let c := { c with PC := (c.PC + 1) % 65536 }
    some (c, pins)
  | 1 =>
    let pins := _VPA pins
    let pins := _SA pins c.PC
    let c := { c with PC := (c.PC + 1) % 65536 }
    let c := { c with AD := _GD pins }
    some (c, pins)
  | 2 =>
    let c := { c with AD := (c.AD ||| (_GD pins <<< 8)) % 65536 }
    let pins := _SA pins ((c.AD &&& 0xFF00) ||| ((c.AD + _X c) &&& 0xFF))
    let c := { c with IR := (c.IR + (NOT32 (SUB32 (c.AD >>> 8) ((c.AD + _X c) >>> 8)) &&& 1)) % 65536 }
    some (c, pins)
  | 3 =>
    let pins := _VDA pins
    let pins := _SA pins (c.AD + _X c)
    some (c, pins)
  | 4 =>
    let c := _w65816_bit c (_GD pins)
    let pins := _FETCH c pins
    some (c, pins)
  | _ => none

/-- Decoder cases `(0x3D<<3)|0..7`: AND a,x (lines 1262-1269). -/
def op_3D (step : Nat) (c : w65816_t) (pins : Nat) : Option (w65816_t × Nat) :=
  match step with
  | 0 =>
    let pins := _VPA pins
    let pins := _SA pins c.PC
    let c := { c with PC := (c.PC + 1) % 65536 }
    some (c, pins)
  | 1 =>
    let pins := _VPA pins
    let pins := _SA pins c.PC
    let c := { c with PC := (c.PC + 1) % 65536 }
    let c := { c with AD := _GD pins }
    some (c, pins)
  | 2 =>
    let c := { c with AD := (c.AD ||| (_GD pins <<< 8)) % 65536 }
    let pins := _SA pins ((c.AD &&& 0xFF00) ||| ((c.AD + _X c) &&& 0xFF))
    let c := { c with IR := (c.IR + (NOT32 (SUB32 (c.AD >>> 8) ((c.AD + _X c) >>> 8)) &&& 1)) % 65536 }
    some (c, pins)
  | 3 =>
    let pins := _VDA pins
    let pins := _SA pins (c.AD + _X c)
    some (c, pins)
  | 4 =>
    let c := set_A c (_A c &&& _GD pins)
    let c := _NZ c (_A c)
    let pins := _FETCH c pins
    some (c, pins)
  | _ => none

/-- Decoder cases `(0x3E<<3)|0..7`: ROL a,x (lines 1271-1278). -/
def op_3E (step : Nat) (c : w65816_t) (pins : Nat) : Option (w65816_t × Nat) :=
  match step with
  | 0 =>
    let pins := _VPA pins
    let pins := _SA pins c.PC
    let c := { c with PC := (c.PC + 1) % 65536 }
    some (c, pins)
  | 1 =>
    let pins := _VPA pins
    let pins := _SA pins c.PC
    let c := { c with PC := (c.PC + 1) % 65536 }
    let c := { c with AD := _GD pins }
    some (c, pins)
  | 2 =>
    let c := { c with AD := (c.AD ||| (_GD pins <<< 8)) % 65536 }
    let pins := _SA pins ((c.AD &&& 0xFF00) ||| ((c.AD + _X c) &&& 0xFF))
    some (c, pins)
  | 3 =>
    let pins := _VDA pins
    let pins := _SA pins (c.AD + _X c)
    some (c, pins)
  | 4 =>
    let pins := _VDA pins
    let c := { c with AD := _GD pins }
    let pins := _WR pins
    some (c, pins)
  | 5 =>
    let pins := _VDA pins
    let r := _w65816_rol c c.AD
    let c := r.1
    let pins := _SD pins r.2
    let pins := _WR pins
    some (c, pins)
  | 6 =>
    let pins := _FETCH c pins
    some (c, pins)
  | _ => none

/-- Decoder cases `(0x3F<<3)|0..7`: AND al,x (lines 1280-1287). -/
def op_3F (step : Nat) (c : w65816_t) (pins : Nat) : Option (w65816_t × Nat) :=
  match step with
  | 0 => some (c, pins)
  | 1 =>
    let c := set_A c (_A c &&& _GD pins)
    let c := _NZ c (_A c)
    some (c, pins)
  | 2 =>
    let pins := _FETCH c pins
    some (c, pins)
  | _ => none

/-- Decoder cases `(0x40<<3)|0..7`: RTI s (lines 1289-1296). -/
def op_40 (step : Nat) (c : w65816_t) (pins : Nat) : Option (w65816_t × Nat) :=
  match step with
  | 0 =>
    let pins := _SA pins c.PC
    some (c, pins)
  | 1 =>
    let pins := _SA pins (0x0100 ||| _S c)
    let c := set_S c (_S c + 1)
    some (c, pins)
  | 2 =>
    let pins := _VDA pins
    let pins := _SA pins (0x0100 ||| _S c)
    let c := set_S c (_S c + 1)
    some (c, pins)
  | 3 =>
    let pins := _VDA pins
    let pins := _SA pins (0x0100 ||| _S c)
    let c := set_S c (_S c + 1)
    let c := { c with P := ((_GD pins ||| W65816_BF) &&& NOT32 W65816_UF) % 256 }
    some (c, pins)
  | 4 =>
    let pins := _VDA pins
    let pins := _SA pins (0x0100 ||| _S c)
    let c := { c with AD := _GD pins }
    some (c, pins)
  | 5 =>
    let c := { c with PC := ((_GD pins <<< 8) ||| c.AD) % 65536 }
    let pins := _FETCH c pins
    some (c, pins)
  | _ => none

/-- Decoder cases `(0x41<<3)|0..7`: EOR (d,x) (lines 1298-1305). -/
def op_41 (step : Nat) (c : w65816_t) (pins : Nat) : Option (w65816_t × Nat) :=
  match step with
  | 0 =>
    let pins := _VPA pins
    let pins := _SA pins c.PC
    let c := { c with PC := (c.PC + 1) % 65536 }
    some (c, pins)
  | 1 =>
    let c := { c with AD := _GD pins }
    let pins := _SA pins c.AD
    some (c, pins)
  | 2 =>
    let pins := _VDA pins
    let c := { c with AD := (c.AD + _X c) &&& 0xFF }
    let pins := _SA pins c.AD
    some (c, pins)
  | 3 =>
    let pins := _VDA pins
    let pins := _SA pins ((c.AD + 1) &&& 0xFF)
    let c := { c with AD := _GD pins }
    some (c, pins)
  | 4 =>
    let pins := _VDA pins
    let pins := _SA pins ((_GD pins <<< 8) ||| c.AD)
    some (c, pins)
  | 5 =>
    let c := set_A c (_A c ^^^ _GD pins)
    let c := _NZ c (_A c)
    let pins := _FETCH c pins
    some (c, pins)
  | _ => none

/-- Decoder cases `(0x42<<3)|0..7`: WDM # (lines 1307-1314). -/
def op_42 (step : Nat) (c : w65816_t) (pins : Nat) : Option (w65816_t × Nat) :=
  match step with
  | 0 =>
    let pins := _VPA pins
    let pins := _SA pins c.PC
    let c := { c with PC := (c.PC + 1) % 65536 }
    some (c, pins)
  | 1 =>
    let pins := _FETCH c pins
    some (c, pins)
  | _ => none

/-- Decoder cases `(0x43<<3)|0..7`: EOR d,s (lines 1316-1323). -/
def op_43 (step : Nat) (c : w65816_t) (pins : Nat) : Option (w65816_t × Nat) :=
  match step with
  | 0 => some (c, pins)
  | 1 =>
    let c := set_A c (_A c ^^^ _GD pins)
    let c := _NZ c (_A c)
    some (c, pins)
  | 2 =>
    let pins := _FETCH c pins
    some (c, pins)
  | _ => none

/-- Decoder cases `(0x44<<3)|0..7`: MVP xyc (lines 1325-1332). -/
def op_44 (step : Nat) (c : w65816_t) (pins : Nat) : Option (w65816_t × Nat) :=
  match step with
  | 0 =>
    let pins := _VPA pins
    let pins := _SA pins c.PC
    let c := { c with PC := (c.PC + 1) % 65536 }
    some (c, pins)
  | 1 =>
    let pins := _VPA pins
    let c := { c with DBR := _GD pins }
    let pins := _SA pins c.PC
    some (c, pins)
  | 2 =>
    let pins := _VDA pins
    let pins := _SB pins (_GD pins)
    let pins := _SA pins c.X
    let c := { c with X := (c.X + 65535) % 65536 }
    some (c, pins)
  | 3 =>
    let pins := _VDA pins
    let pins := _SB pins c.DBR
    let pins := _SA pins c.Y
    let c := { c with Y := (c.Y + 65535) % 65536 }
    let pins := _WR pins
    some (c, pins)
  | 4 =>
    let c := if c.C ≠ 0 then (let c := { c with PC := (c.PC + 65535) % 65536 }; c) else c
    some (c, pins)
  | 5 =>
    let c := if c.C ≠ 0 then { c with C := (c.C + 65535) % 65536, PC := (c.PC + 65535) % 65536 } else { c with C := (c.C + 65535) % 65536, PC := (c.PC + 1) % 65536 }
    some (c, pins)
  | 6 =>
    let pins := _FETCH c pins
    some (c, pins)
  | _ => none

/-- Decoder cases `(0x45<<3)|0..7`: EOR d (lines 1334-1341). -/
def op_45 (step : Nat) (c : w65816_t) (pins : Nat) : Option (w65816_t × Nat) :=
  match step with
  | 0 =>
    let pins := _VPA pins
    let pins := _SA pins c.PC
    let c := { c with PC := (c.PC + 1) % 65536 }
    some (c, pins)
  | 1 =>
    let pins := _VDA pins
    let pins := _SA pins (_GD pins)
    some (c, pins)
  | 2 =>
    let c := set_A c (_A c ^^^ _GD pins)
    let c := _NZ c (_A c)
    let pins := _FETCH c pins
    some (c, pins)
  | _ => none

/-- Decoder cases `(0x46<<3)|0..7`: LSR d (lines 1343-1350). -/
def op_46 (step : Nat) (c : w65816_t) (pins : Nat) : Option (w65816_t × Nat) :=
  match step with
  | 0 =>
    let pins := _VPA pins
    let pins := _SA pins c.PC
    let c := { c with PC := (c.PC + 1) % 65536 }
    some (c, pins)
  | 1 =>
    let pins := _VDA pins
    let pins := _SA pins (_GD pins)
    some (c, pins)
  | 2 =>
    let pins := _VDA pins
    let c := { c with AD := _GD pins }
    let pins := _WR pins
    some (c, pins)
  | 3 =>
    let pins := _VDA pins
    let r := _w65816_lsr c c.AD
    let c := r.1
    let pins := _SD pins r.2
    let pins := _WR pins
    some (c, pins)
  | 4 =>
    let pins := _FETCH c pins
    some (c, pins)
  | _ => none

/-- Decoder cases `(0x47<<3)|0..7`: EOR [d] (lines 1352-1359). -/
def op_47 (step : Nat) (c : w65816_t) (pins : Nat) : Option (w65816_t × Nat) :=
  match step with
  | 0 => some (c, pins)
  | 1 =>
    let c := set_A c (_A c ^^^ _GD pins)
    let c := _NZ c (_A c)
    some (c, pins)
  | 2 =>
    let pins := _FETCH c pins
    some (c, pins)
  | _ => none

/-- Decoder cases `(0x48<<3)|0..7`: PHA s (lines 1361-1368). -/
def op_48 (step : Nat) (c : w65816_t) (pins : Nat) : Option (w65816_t × Nat) :=
  match step with
  | 0 =>
    let pins := _SA pins c.PC
    some (c, pins)
  | 1 =>
    let pins := _VDA pins
    let pins := _SAD pins (0x0100 ||| _S c) (_A c)
    let c := set_S c (_S c + 255)
    let pins := _WR pins
    some (c, pins)
  | 2 =>
    let pins := _FETCH c pins
    some (c, pins)
  | _ => none

/-- Decoder cases `(0x49<<3)|0..7`: EOR # (lines 1370-1377). -/
def op_49 (step : Nat) (c : w65816_t) (pins : Nat) : Option (w65816_t × Nat) :=
  match step with
  | 0 =>
    let pins := _VPA pins
    let pins := _SA pins c.PC
    let c := { c with PC := (c.PC + 1) % 65536 }
    some (c, pins)
  | 1 =>
    let c := set_A c (_A c ^^^ _GD pins)
    let c := _NZ c (_A c)
    let pins := _FETCH c pins
    some (c, pins)
  | _ => none

/-- Decoder cases `(0x4A<<3)|0..7`: LSR A (lines 1379-1386). -/
def op_4A (step : Nat) (c : w65816_t) (pins : Nat) : Option (w65816_t × Nat) :=
  match step with
  | 0 =>
    let pins := _SA pins c.PC
    some (c, pins)
  | 1 =>
    let r := _w65816_lsr c (_A c)
    let c := set_A r.1 r.2
    let pins := _FETCH c pins
    some (c, pins)
  | _ => none

/-- Decoder cases `(0x4B<<3)|0..7`: PHK s (lines 1388-1395). -/
def op_4B (step : Nat) (c : w65816_t) (pins : Nat) : Option (w65816_t × Nat) :=
  match step with
  | 0 =>
    let pins := _SA pins c.PC
    some (c, pins)
  | 1 =>
    let pins := _VDA pins
    let pins := _SAD pins (0x0100 ||| _S c) c.PBR
    let c := set_S c (_S c + 255)
    let pins := _WR pins
    some (c, pins)
  | 2 =>
    let pins := _FETCH c pins
    some (c, pins)
  | _ => none

/-- Decoder cases `(0x4C<<3)|0..7`: JMP a (lines 1397-1404). -/
def op_4C (step : Nat) (c : w65816_t) (pins : Nat) : Option (w65816_t × Nat) :=
  match step with
  | 0 =>
    let pins := _VPA pins
    let pins := _SA pins c.PC
    let c := { c with PC := (c.PC + 1) % 65536 }
    some (c, pins)
  | 1 =>
    let pins := _VPA pins
    let pins := _SA pins c.PC
    let c := { c with PC := (c.PC + 1) % 65536 }
    let c := { c with AD := _GD pins }
    some (c, pins)
  | 2 =>
    let c := { c with PC := ((_GD pins <<< 8) ||| c.AD) % 65536 }
    let pins := _FETCH c pins
    some (c, pins)
  | _ => none

/-- Decoder cases `(0x4D<<3)|0..7`: EOR a (lines 1406-1413). -/
def op_4D (step : Nat) (c : w65816_t) (pins : Nat) : Option (w65816_t × Nat) :=
  match step with
  | 0 =>
    let pins := _VPA pins
    let pins := _SA pins c.PC
    let c := { c with PC := (c.PC + 1) % 65536 }
    some (c, pins)
  | 1 =>
    let pins := _VPA pins
    let pins := _SA pins c.PC
    let c := { c with PC := (c.PC + 1) % 65536 }
    let c := { c with AD := _GD pins }
    some (c, pins)
  | 2 =>
    let pins := _SA pins ((_GD pins <<< 8) ||| c.AD)
    some (c, pins)
  | 3 =>
    let c := set_A c (_A c ^^^ _GD pins)
    let c := _NZ c (_A c)
    let pins := _FETCH c pins
    some (c, pins)
  | _ => none

/-- Decoder cases `(0x4E<<3)|0..7`: LSR a (lines 1415-1422). -/
def op_4E (step : Nat) (c : w65816_t) (pins : Nat) : Option (w65816_t × Nat) :=
  match step with
  | 0 =>
    let pins := _VPA pins
    let pins := _SA pins c.PC
    let c := { c with PC := (c.PC + 1) % 65536 }
    some (c, pins)
  | 1 =>
    let pins := _VPA pins
    let pins := _SA pins c.PC
    let c := { c with PC := (c.PC + 1) % 65536 }
    let c := { c with AD := _GD pins }
    some (c, pins)
  | 2 =>
    let pins := _SA pins ((_GD pins <<< 8) ||| c.AD)
    some (c, pins)
  | 3 =>
    let pins := _VDA pins
    let c := { c with AD := _GD pins }
    let pins := _WR pins
    some (c, pins)
  | 4 =>
    let pins := _VDA pins
    let r := _w65816_lsr c c.AD
    let c := r.1
    let pins := _SD pins r.2
    let pins := _WR pins
    some (c, pins)
  | 5 =>
    let pins := _FETCH c pins
    some (c, pins)
  | _ => none

/-- Decoder cases `(0x4F<<3)|0..7`: EOR al (lines 1424-1431). -/
def op_4F (step : Nat) (c : w65816_t) (pins : Nat) : Option (w65816_t × Nat) :=
  match step with
  | 0 => some (c, pins)
  | 1 =>
    let c := set_A c (_A c ^^^ _GD pins)
    let c := _NZ c (_A c)
    some (c, pins)
  | 2 =>
    let pins := _FETCH c pins
    some (c, pins)
  | _ => none

/-- Decoder cases `(0x50<<3)|0..7`: BVC r (lines 1433-1440). -/
def op_50 (step : Nat) (c : w65816_t) (pins : Nat) : Option (w65816_t × Nat) :=
  match step with
  | 0 =>
    let pins := _VPA pins
    let pins := _SA pins c.PC
    let c := { c with PC := (c.PC + 1) % 65536 }
    some (c, pins)
  | 1 =>
    let pins := _SA pins c.PC
    let c := { c with AD := (c.PC + SEXT8 (_GD pins)) % 65536 }
    let pins := if (c.P &&& 0x40) ≠ 0x0 then (let pins := _FETCH c pins; pins) else pins
    some (c, pins)
  | 2 =>
    let pins := _SA pins ((c.PC &&& 0xFF00) ||| (c.AD &&& 0x00FF))
    let r := if (c.AD &&& 0xFF00) = (c.PC &&& 0xFF00) then (let c := { c with PC := c.AD }; let c := { c with irq_pip := c.irq_pip >>> 1 }; let c := { c with nmi_pip := c.nmi_pip >>> 1 }; let pins := _FETCH c pins; (c, pins)) else (c, pins)
    let c := r.1
    let pins := r.2
    some (c, pins)
  | 3 =>
    let c := { c with PC := c.AD }
    let pins := _FETCH c pins
    some (c, pins)
  | _ => none

/-- Decoder cases `(0x51<<3)|0..7`: EOR (d),y (lines 1442-1449). -/
def op_51 (step : Nat) (c : w65816_t) (pins : Nat) : Option (w65816_t × Nat) :=
  match step with
  | 0 =>
    let pins := _VPA pins
    let pins := _SA pins c.PC
    let c := { c with PC := (c.PC + 1) % 65536 }
    some (c, pins)
  | 1 =>
    let pins := _VDA pins
    let c := { c with AD := _GD pins }
    let pins := _SA pins c.AD
    some (c, pins)
  | 2 =>
    let pins := _VDA pins
    let pins := _SA pins ((c.AD + 1) &&& 0xFF)
    let c := { c with AD := _GD pins }
    some (c, pins)
  | 3 =>
    let c := { c with AD := (c.AD ||| (_GD pins <<< 8)) % 65536 }
    let pins := _SA pins ((c.AD &&& 0xFF00) ||| ((c.AD + _Y c) &&& 0xFF))
    let c := { c with IR := (c.IR + (NOT32 (SUB32 (c.AD >>> 8) ((c.AD + _Y c) >>> 8)) &&& 1)) % 65536 }
    some (c, pins)
  | 4 =>
    let pins := _VDA pins
    let pins := _SA pins (c.AD + _Y c)
    some (c, pins)
  | 5 =>
    let c := set_A c (_A c ^^^ _GD pins)
    let c := _NZ c (_A c)
    let pins := _FETCH c pins
    some (c, pins)
  | _ => none

/-- Decoder cases `(0x52<<3)|0..7`: EOR (d) (lines 1451-1458). -/
def op_52 (step : Nat) (c : w65816_t) (pins : Nat) : Option (w65816_t × Nat) :=
  match step with
  | 0 => some (c, pins)
  | 1 =>
    let c := set_A c (_A c ^^^ _GD pins)
    let c := _NZ c (_A c)
    some (c, pins)
  | 2 =>
    let pins := _FETCH c pins
    some (c, pins)
  | _ => none

/-- Decoder cases `(0x53<<3)|0..7`: EOR (d,s),y (lines 1460-1467). -/
def op_53 (step : Nat) (c : w65816_t) (pins : Nat) : Option (w65816_t × Nat) :=
  match step with
  | 0 => some (c, pins)
  | 1 =>
    let c := set_A c (_A c ^^^ _GD pins)
    let c := _NZ c (_A c)
    some (c, pins)
  | 2 =>
    let pins := _FETCH c pins
    some (c, pins)
  | _ => none

/-- Decoder cases `(0x54<<3)|0..7`: MVN xyc (lines 1469-1476). -/
def op_54 (step : Nat) (c : w65816_t) (pins : Nat) : Option (w65816_t × Nat) :=
  match step with
  | 0 =>
    let pins := _VPA pins
    let pins := _SA pins c.PC
    let c := { c with PC := (c.PC + 1) % 65536 }
    some (c, pins)
  | 1 =>
    let pins := _VPA pins
    let c := { c with DBR := _GD pins }
    let pins := _SA pins c.PC
    some (c, pins)
  | 2 =>
    let pins := _VDA pins
    let pins := _SB pins (_GD pins)
    let pins := _SA pins c.X
    let c := { c with X := (c.X + 1) % 65536 }
    some (c, pins)
  | 3 =>
    let pins := _VDA pins
    let pins := _SB pins c.DBR
    let pins := _SA pins c.Y
    let c := { c with Y := (c.Y + 1) % 65536 }
    let pins := _WR pins
    some (c, pins)
  | 4 =>
    let c := if c.C ≠ 0 then (let c := { c with PC := (c.PC + 65535) % 65536 }; c) else c
    some (c, pins)
  | 5 =>
    let c := if c.C ≠ 0 then { c with C := (c.C + 65535) % 65536, PC := (c.PC + 65535) % 65536 } else { c with C := (c.C + 65535) % 65536, PC := (c.PC + 1) % 65536 }
    some (c, pins)
  | 6 =>
    let pins := _FETCH c pins
    some (c, pins)
  | _ => none

/-- Decoder cases `(0x55<<3)|0..7`: EOR d,x (lines 1478-1485). -/
def op_55 (step : Nat) (c : w65816_t) (pins : Nat) : Option (w65816_t × Nat) :=
  match step with
  | 0 =>
    let pins := _VPA pins
    let pins := _SA pins c.PC
    let c := { c with PC := (c.PC + 1) % 65536 }
    some (c, pins)
  | 1 =>
    let c := { c with AD := _GD pins }
    let pins := _SA pins c.AD
    some (c, pins)
  | 2 =>
    let pins := _VDA pins
    let pins := if _E c then (let pins := _SA pins ((c.AD + _X c) &&& 0x00FF); pins) else (let pins := _SA pins (c.AD + _X c); pins)
    some (c, pins)
  | 3 =>
    let c := set_A c (_A c ^^^ _GD pins)
    let c := _NZ c (_A c)
    let pins := _FETCH c pins
    some (c, pins)
  | _ => none

/-- Decoder cases `(0x56<<3)|0..7`: LSR d,x (lines 1487-1494). -/
def op_56 (step : Nat) (c : w65816_t) (pins : Nat) : Option (w65816_t × Nat) :=
  match step with
  | 0 =>
    let pins := _VPA pins
    let pins := _SA pins c.PC
    let c := { c with PC := (c.PC + 1) % 65536 }
    some (c, pins)
  | 1 =>
    let c := { c with AD := _GD pins }
    let pins := _SA pins c.AD
    some (c, pins)
  | 2 =>
    let pins := _VDA pins
    let pins := if _E c then (let pins := _SA pins ((c.AD + _X c) &&& 0x00FF); pins) else (let pins := _SA pins (c.AD + _X c); pins)
    some (c, pins)
  | 3 =>
    let pins := _VDA pins
    let c := { c with AD := _GD pins }
    let pins := _WR pins
    some (c, pins)
  | 4 =>
    let pins := _VDA pins
    let r := _w65816_lsr c c.AD
    let c := r.1
    let pins := _SD pins r.2
    let pins := _WR pins
    some (c, pins)
  | 5 =>
    let pins := _FETCH c pins
    some (c, pins)
  | _ => none

/-- Decoder cases `(0x57<<3)|0..7`: EOR [d],y (lines 1496-1503). -/
def op_57 (step : Nat) (c : w65816_t) (pins : Nat) : Option (w65816_t × Nat) :=
  match step with
  | 0 => some (c, pins)
  | 1 =>
    let c := set_A c (_A c ^^^ _GD pins)
    let c := _NZ c (_A c)
    some (c, pins)
  | 2 =>
    let pins := _FETCH c pins
    some (c, pins)
  | _ => none

/-- Decoder cases `(0x58<<3)|0..7`: CLI i (lines 1505-1512). -/
def op_58 (step : Nat) (c : w65816_t) (pins : Nat) : Option (w65816_t × Nat) :=
  match step with
  | 0 =>
    let pins := _SA pins c.PC
    some (c, pins)
  | 1 =>
    let c := { c with P := (c.P &&& NOT32 0x4) % 256 }
    let pins := _FETCH c pins
    some (c, pins)
  | _ => none

/-- Decoder cases `(0x59<<3)|0..7`: EOR a,y (lines 1514-1521). -/
def op_59 (step : Nat) (c : w65816_t) (pins : Nat) : Option (w65816_t × Nat) :=
  match step with
  | 0 =>
    let pins := _VPA pins
    let pins := _SA pins c.PC
    let c := { c with PC := (c.PC + 1) % 65536 }
    some (c, pins)
  | 1 =>
    let pins := _VPA pins
    let pins := _SA pins c.PC
    let c := { c with PC := (c.PC + 1) % 65536 }
    let c := { c with AD := _GD pins }
    some (c, pins)
  | 2 =>
    let c := { c with AD := (c.AD ||| (_GD pins <<< 8)) % 65536 }
    let pins := _SA pins ((c.AD &&& 0xFF00) ||| ((c.AD + _Y c) &&& 0xFF))
    let c := { c with IR := (c.IR + (NOT32 (SUB32 (c.AD >>> 8) ((c.AD + _Y c) >>> 8)) &&& 1)) % 65536 }
    some (c, pins)
  | 3 =>
    let pins := _VDA pins
    let pins := _SA pins (c.AD + _Y c)
    some (c, pins)
  | 4 =>
    let c := set_A c (_A c ^^^ _GD pins)
    let c := _NZ c (_A c)
    let pins := _FETCH c pins
    some (c, pins)
  | _ => none

/-- Decoder cases `(0x5A<<3)|0..7`: PHY s (lines 1523-1530). -/
def op_5A (step : Nat) (c : w65816_t) (pins : Nat) : Option (w65816_t × Nat) :=
  match step with
  | 0 =>
    let pins := _SA pins c.PC
    some (c, pins)
  | 1 =>
    let pins := _VDA pins
    let pins := _SAD pins (0x0100 ||| _S c) (_Y c)
    let c := set_S c (_S c + 255)
    let pins := _WR pins
    some (c, pins)
  | 2 =>
    let pins := _FETCH c pins
    some (c, pins)
  | _ => none

/-- Decoder cases `(0x5B<<3)|0..7`: TCD i (lines 1532-1539). -/
def op_5B (step : Nat) (c : w65816_t) (pins : Nat) : Option (w65816_t × Nat) :=
  match step with
  | 0 =>
    let pins := _SA pins c.PC
    some (c, pins)
  | 1 =>
    let c := { c with D := c.C }
    let c := _NZ c c.C
    let pins := _FETCH c pins
    some (c, pins)
  | _ => none

/-- Decoder cases `(0x5C<<3)|0..7`: JMP al (lines 1541-1548). -/
def op_5C (step : Nat) (c : w65816_t) (pins : Nat) : Option (w65816_t × Nat) :=
  match step with
  | 0 => some (c, pins)
  | 1 =>
    let pins := _VPA pins
    let pins := _SA pins c.PC
    let c := { c with PC := (c.PC + 1) % 65536 }
    some (c, pins)
  | 2 =>
    let pins := _VPA pins
    let pins := _SA pins c.PC
    let c := { c with PC := (c.PC + 1) % 65536 }
    let c := { c with AD := _GD pins }
    some (c, pins)
  | 3 =>
    let c := { c with PC := ((_GD pins <<< 8) ||| c.AD) % 65536 }
    let pins := _FETCH c pins
    some (c, pins)
  | _ => none

/-- Decoder cases `(0x5D<<3)|0..7`: EOR a,x (lines 1550-1557). -/
def op_5D (step : Nat) (c : w65816_t) (pins : Nat) : Option (w65816_t × Nat) :=
  match step with
  | 0 =>
    let pins := _VPA pins
    let pins := _SA pins c.PC
    let c := { c with PC := (c.PC + 1) % 65536 }
    some (c, pins)
  | 1 =>
    let pins := _VPA pins
    let pins := _SA pins c.PC
    let c := { c with PC := (c.PC + 1) % 65536 }
    let c := { c with AD := _GD pins }
    some (c, pins)
  | 2 =>
    let c := { c with AD := (c.AD ||| (_GD pins <<< 8)) % 65536 }
    let pins := _SA pins ((c.AD &&& 0xFF00) ||| ((c.AD + _X c) &&& 0xFF))
    let c := { c with IR := (c.IR + (NOT32 (SUB32 (c.AD >>> 8) ((c.AD + _X c) >>> 8)) &&& 1)) % 65536 }
    some (c, pins)
  | 3 =>
    let pins := _VDA pins
    let pins := _SA pins (c.AD + _X c)
    some (c, pins)
  | 4 =>
    let c := set_A c (_A c ^^^ _GD pins)
    let c := _NZ c (_A c)
    let pins := _FETCH c pins
    some (c, pins)
  | _ => none

/-- Decoder cases `(0x5E<<3)|0..7`: LSR a,x (lines 1559-1566). -/
def op_5E (step : Nat) (c : w65816_t) (pins : Nat) : Option (w65816_t × Nat) :=
  match step with
  | 0 =>
    let pins := _VPA pins
    let pins := _SA pins c.PC
    let c := { c with PC := (c.PC + 1) % 65536 }
    some (c, pins)
  | 1 =>
    let pins := _VPA pins
    let pins := _SA pins c.PC
    let c := { c with PC := (c.PC + 1) % 65536 }
    let c := { c with AD := _GD pins }
    some (c, pins)
  | 2 =>
    let c := { c with AD := (c.AD ||| (_GD pins <<< 8)) % 65536 }
    let pins := _SA pins ((c.AD &&& 0xFF00) ||| ((c.AD + _X c) &&& 0xFF))
    some (c, pins)
  | 3 =>
    let pins := _VDA pins
    let pins := _SA pins (c.AD + _X c)
    some (c, pins)
  | 4 =>
    let pins := _VDA pins
    let c := { c with AD := _GD pins }
    let pins := _WR pins
    some (c, pins)
  | 5 =>
    let pins := _VDA pins
    let r := _w65816_lsr c c.AD
    let c := r.1
    let pins := _SD pins r.2
    let pins := _WR pins
    some (c, pins)
  | 6 =>
    let pins := _FETCH c pins
    some (c, pins)
  | _ => none

/-- Decoder cases `(0x5F<<3)|0..7`: EOR al,x (lines 1568-1575). -/
def op_5F (step : Nat) (c : w65816_t) (pins : Nat) : Option (w65816_t × Nat) :=
  match step with
  | 0 => some (c, pins)
  | 1 =>
    let c := set_A c (_A c ^^^ _GD pins)
    let c := _NZ c (_A c)
    some (c, pins)
  | 2 =>
    let pins := _FETCH c pins
    some (c, pins)
  | _ => none

/-- Decoder cases `(0x60<<3)|0..7`: RTS s (lines 1577-1584). -/
def op_60 (step : Nat) (c : w65816_t) (pins : Nat) : Option (w65816_t × Nat) :=
  match step with
  | 0 =>
    let pins := _SA pins c.PC
    some (c, pins)
  | 1 =>
    let pins := _SA pins (0x0100 ||| _S c)
    let c := set_S c (_S c + 1)
    some (c, pins)
  | 2 =>
    let pins := _VDA pins
    let pins := _SA pins (0x0100 ||| _S c)
    let c := set_S c (_S c + 1)
    some (c, pins)
  | 3 =>
    let pins := _VDA pins
    let pins := _SA pins (0x0100 ||| _S c)
    let c := { c with AD := _GD pins }
    some (c, pins)
  | 4 =>
    let c := { c with PC := ((_GD pins <<< 8) ||| c.AD) % 65536 }
    let pins := _SA pins c.PC
    let c := { c with PC := (c.PC + 1) % 65536 }
    some (c, pins)
  | 5 =>
    let pins := _FETCH c pins
    some (c, pins)
  | _ => none

/-- Decoder cases `(0x61<<3)|0..7`: ADC (d,x) (lines 1586-1593). -/
def op_61 (step : Nat) (c : w65816_t) (pins : Nat) : Option (w65816_t × Nat) :=
  match step with
  | 0 =>
    let pins := _VPA pins
    let pins := _SA pins c.PC
    let c := { c with PC := (c.PC + 1) % 65536 }
    some (c, pins)
  | 1 =>
    let c := { c with AD := _GD pins }
    let pins := _SA pins c.AD
    some (c, pins)
  | 2 =>
    let pins := _VDA pins
    let c := { c with AD := (c.AD + _X c) &&& 0xFF }
    let pins := _SA pins c.AD
    some (c, pins)
  | 3 =>
    let pins := _VDA pins
    let pins := _SA pins ((c.AD + 1) &&& 0xFF)
    let c := { c with AD := _GD pins }
    some (c, pins)
  | 4 =>
    let pins := _VDA pins
    let pins := _SA pins ((_GD pins <<< 8) ||| c.AD)
    some (c, pins)
  | 5 =>
    let c := _w65816_adc c (_GD pins)
    let pins := _FETCH c pins
    some (c, pins)
  | _ => none

/-- Decoder cases `(0x62<<3)|0..7`: PER s (unimpl) (lines 1595-1602). -/
def op_62 (step : Nat) (c : w65816_t) (pins : Nat) : Option (w65816_t × Nat) :=
  match step with
  | 0 =>
    let pins := _SA pins c.PC
    some (c, pins)
  | 1 => some (c, pins)
  | 2 =>
    let pins := _FETCH c pins
    some (c, pins)
  | _ => none

/-- Decoder cases `(0x63<<3)|0..7`: ADC d,s (lines 1604-1611). -/
def op_63 (step : Nat) (c : w65816_t) (pins : Nat) : Option (w65816_t × Nat) :=
  match step with
  | 0 => some (c, pins)
  | 1 =>
    let c := _w65816_adc c (_GD pins)
    some (c, pins)
  | 2 =>
    let pins := _FETCH c pins
    some (c, pins)
  | _ => none

/-- Decoder cases `(0x64<<3)|0..7`: STZ d (lines 1613-1620). -/
def op_64 (step : Nat) (c : w65816_t) (pins : Nat) : Option (w65816_t × Nat) :=
  match step with
  | 0 =>
    let pins := _VPA pins
    let pins := _SA pins c.PC
    let c := { c with PC := (c.PC + 1) % 65536 }
    some (c, pins)
  | 1 =>
    let pins := _VDA pins
    let pins := _SA pins (_GD pins)
    let pins := _VDA pins
    let pins := _SD pins 0
    let pins := _WR pins
    some (c, pins)
  | 2 =>
    let pins := if _a8 c then (let pins := _FETCH c pins; pins) else (let pins := _VDA pins; let pins := _SALD pins ((_GAL pins + 1) % 0x100000000) 0; let pins := _WR pins; pins)
    some (c, pins)
  | 3 =>
    let pins := _FETCH c pins
    some (c, pins)
  | _ => none

/-- Decoder cases `(0x65<<3)|0..7`: ADC d (lines 1622-1629). -/
def op_65 (step : Nat) (c : w65816_t) (pins : Nat) : Option (w65816_t × Nat) :=
  match step with
  | 0 =>
    let pins := _VPA pins
    let pins := _SA pins c.PC
    let c := { c with PC := (c.PC + 1) % 65536 }
    some (c, pins)
  | 1 =>
    let pins := _VDA pins
    let pins := _SA pins (_GD pins)
    some (c, pins)
  | 2 =>
    let c := _w65816_adc c (_GD pins)
    let pins := _FETCH c pins
    some (c, pins)
  | _ => none

/-- Decoder cases `(0x66<<3)|0..7`: ROR d (lines 1631-1638). -/
def op_66 (step : Nat) (c : w65816_t) (pins : Nat) : Option (w65816_t × Nat) :=
  match step with
  | 0 =>
    let pins := _VPA pins
    let pins := _SA pins c.PC
    let c := { c with PC := (c.PC + 1) % 65536 }
    some (c, pins)
  | 1 =>
    let pins := _VDA pins
    let pins := _SA pins (_GD pins)
    some (c, pins)
  | 2 =>
    let pins := _VDA pins
    let c := { c with AD := _GD pins }
    let pins := _WR pins
    some (c, pins)
  | 3 =>
    let pins := _VDA pins
    let r := _w65816_ror c c.AD
    let c := r.1
    let pins := _SD pins r.2
    let pins := _WR pins
    some (c, pins)
  | 4 =>
    let pins := _FETCH c pins
    some (c, pins)
  | _ => none

/-- Decoder cases `(0x67<<3)|0..7`: ADC [d] (lines 1640-1647). -/
def op_67 (step : Nat) (c : w65816_t) (pins : Nat) : Option (w65816_t × Nat) :=
  match step with
  | 0 => some (c, pins)
  | 1 =>
    let c := _w65816_adc c (_GD pins)
    some (c, pins)
  | 2 =>
    let pins := _FETCH c pins
    some (c, pins)
  | _ => none

/-- Decoder cases `(0x68<<3)|0..7`: PLA s (lines 1649-1656). -/
def op_68 (step : Nat) (c : w65816_t) (pins : Nat) : Option (w65816_t × Nat) :=
  match step with
  | 0 =>
    let pins := _SA pins c.PC
    some (c, pins)
  | 1 =>
    let pins := _SA pins c.PC
    some (c, pins)
  | 2 =>
    let pins := _VDA pins
    let c := set_S c (_S c + 1)
    let pins := _SA pins (0x0100 ||| _S c)
    some (c, pins)
  | 3 =>
    let c := set_A c (_GD pins)
    let c := _NZ c (_A c)
    let pins := _FETCH c pins
    some (c, pins)
  | _ => none

/-- Decoder cases `(0x69<<3)|0..7`: ADC # (lines 1658-1665). -/
def op_69 (step : Nat) (c : w65816_t) (pins : Nat) : Option (w65816_t × Nat) :=
  match step with
  | 0 =>
    let pins := _VPA pins
    let pins := _SA pins c.PC
    let c := { c with PC := (c.PC + 1) % 65536 }
    some (c, pins)
  | 1 =>
    let c := _w65816_adc c (_GD pins)
    let pins := _FETCH c pins
    some (c, pins)
  | _ => none

/-- Decoder cases `(0x6A<<3)|0..7`: ROR A (lines 1667-1674). -/
def op_6A (step : Nat) (c : w65816_t) (pins : Nat) : Option (w65816_t × Nat) :=
  match step with
  | 0 =>
    let pins := _SA pins c.PC
    some (c, pins)
  | 1 =>
    let r := _w65816_ror c (_A c)
    let c := set_A r.1 r.2
    let pins := _FETCH c pins
    some (c, pins)
  | _ => none

/-- Decoder cases `(0x6B<<3)|0..7`: RTL s (unimpl) (lines 1676-1683). -/
def op_6B (step : Nat) (c : w65816_t) (pins : Nat) : Option (w65816_t × Nat) :=
  match step with
  | 0 =>
    let pins := _SA pins c.PC
    some (c, pins)
  | 1 =>
    let pins := _SA pins (0x0100 ||| _S c)
    let c := set_S c (_S c + 1)
    let pins := _FETCH c pins
    some (c, pins)
  | _ => none

/-- Decoder cases `(0x6C<<3)|0..7`: JMP (a) (lines 1685-1692). -/
def op_6C (step : Nat) (c : w65816_t) (pins : Nat) : Option (w65816_t × Nat) :=
  match step with
  | 0 =>
    let pins := _VPA pins
    let pins := _SA pins c.PC
    let c := { c with PC := (c.PC + 1) % 65536 }
    some (c, pins)
  | 1 =>
    let pins := _VPA pins
    let pins := _SA pins c.PC
    let c := { c with PC := (c.PC + 1) % 65536 }
    let c := { c with AD := _GD pins }
    some (c, pins)
  | 2 =>
    let pins := _VDA pins
    let c := { c with AD := (c.AD ||| (_GD pins <<< 8)) % 65536 }
    let pins := _SA pins c.AD
    some (c, pins)
  | 3 =>
    let pins := _VDA pins
    let pins := _SA pins ((c.AD &&& 0xFF00) ||| ((c.AD + 1) &&& 0x00FF))
    let c := { c with AD := _GD pins }
    some (c, pins)
  | 4 =>
    let c := { c with PC := ((_GD pins <<< 8) ||| c.AD) % 65536 }
    let pins := _FETCH c pins
    some (c, pins)
  | _ => none

/-- Decoder cases `(0x6D<<3)|0..7`: ADC a (lines 1694-1701). -/
def op_6D (step : Nat) (c : w65816_t) (pins : Nat) : Option (w65816_t × Nat) :=
  match step with
  | 0 =>
    let pins := _VPA pins
    let pins := _SA pins c.PC
    let c := { c with PC := (c.PC + 1) % 65536 }
    some (c, pins)
  | 1 =>
    let pins := _VPA pins
    let pins := _SA pins c.PC
    let c := { c with PC := (c.PC + 1) % 65536 }
    let c := { c with AD := _GD pins }
    some (c, pins)
  | 2 =>
    let pins := _SA pins ((_GD pins <<< 8) ||| c.AD)
    some (c, pins)
  | 3 =>
    let c := _w65816_adc c (_GD pins)
    let pins := _FETCH c pins
    some (c, pins)
  | _ => none

/-- Decoder cases `(0x6E<<3)|0..7`: ROR a (lines 1703-1710). -/
def op_6E (step : Nat) (c : w65816_t) (pins : Nat) : Option (w65816_t × Nat) :=
  match step with
  | 0 =>
    let pins := _VPA pins
    let pins := _SA pins c.PC
    let c := { c with PC := (c.PC + 1) % 65536 }
    some (c, pins)
  | 1 =>
    let pins := _VPA pins
    let pins := _SA pins c.PC
    let c := { c with PC := (c.PC + 1) % 65536 }
    let c := { c with AD := _GD pins }
    some (c, pins)
  | 2 =>
    let pins := _SA pins ((_GD pins <<< 8) ||| c.AD)
    some (c, pins)
  | 3 =>
    let pins := _VDA pins
    let c := { c with AD := _GD pins }
    let pins := _WR pins
    some (c, pins)
  | 4 =>
    let pins := _VDA pins
    let r := _w65816_ror c c.AD
    let c := r.1
    let pins := _SD pins r.2
    let pins := _WR pins
    some (c, pins)
  | 5 =>
    let pins := _FETCH c pins
    some (c, pins)
  | _ => none

/-- Decoder cases `(0x6F<<3)|0..7`: ADC al (lines 1712-1719). -/
def op_6F (step : Nat) (c : w65816_t) (pins : Nat) : Option (w65816_t × Nat) :=
  match step with
  | 0 => some (c, pins)
  | 1 =>
    let c := _w65816_adc c (_GD pins)
    some (c, pins)
  | 2 =>
    let pins := _FETCH c pins
    some (c, pins)
  | _ => none

/-- Decoder cases `(0x70<<3)|0..7`: BVS r (lines 1721-1728). -/
def op_70 (step : Nat) (c : w65816_t) (pins : Nat) : Option (w65816_t × Nat) :=
  match step with
  | 0 =>
    let pins := _VPA pins
    let pins := _SA pins c.PC
    let c := { c with PC := (c.PC + 1) % 65536 }
    some (c, pins)
  | 1 =>
    let pins := _SA pins c.PC
    let c := { c with AD := (c.PC + SEXT8 (_GD pins)) % 65536 }
    let pins := if (c.P &&& 0x40) ≠ 0x40 then (let pins := _FETCH c pins; pins) else pins
    some (c, pins)
  | 2 =>
    let pins := _SA pins ((c.PC &&& 0xFF00) ||| (c.AD &&& 0x00FF))
    let r := if (c.AD &&& 0xFF00) = (c.PC &&& 0xFF00) then (let c := { c with PC := c.AD }; let c := { c with irq_pip := c.irq_pip >>> 1 }; let c := { c with nmi_pip := c.nmi_pip >>> 1 }; let pins := _FETCH c pins; (c, pins)) else (c, pins)
    let c := r.1
    let pins := r.2
    some (c, pins)
  | 3 =>
    let c := { c with PC := c.AD }
    let pins := _FETCH c pins
    some (c, pins)
  | _ => none

/-- Decoder cases `(0x71<<3)|0..7`: ADC (d),y (lines 1730-1737). -/
def op_71 (step : Nat) (c : w65816_t) (pins : Nat) : Option (w65816_t × Nat) :=
  match step with
  | 0 =>
    let pins := _VPA pins
    let pins := _SA pins c.PC
    let c := { c with PC := (c.PC + 1) % 65536 }
    some (c, pins)
  | 1 =>
    let pins := _VDA pins
    let c := { c with AD := _GD pins }
    let pins := _SA pins c.AD
    some (c, pins)
  | 2 =>
    let pins := _VDA pins
    let pins := _SA pins ((c.AD + 1) &&& 0xFF)
    let c := { c with AD := _GD pins }
    some (c, pins)
  | 3 =>
    let c := { c with AD := (c.AD ||| (_GD pins <<< 8)) % 65536 }
    let pins := _SA pins ((c.AD &&& 0xFF00) ||| ((c.AD + _Y c) &&& 0xFF))
    let c := { c with IR := (c.IR + (NOT32 (SUB32 (c.AD >>> 8) ((c.AD + _Y c) >>> 8)) &&& 1)) % 65536 }
    some (c, pins)
  | 4 =>
    let pins := _VDA pins
    let pins := _SA pins (c.AD + _Y c)
    some (c, pins)
  | 5 =>
    let c := _w65816_adc c (_GD pins)
    let pins := _FETCH c pins
    some (c, pins)
  | _ => none

/-- Decoder cases `(0x72<<3)|0..7`: ADC (d) (lines 1739-1746). -/
def op_72 (step : Nat) (c : w65816_t) (pins : Nat) : Option (w65816_t × Nat) :=
  match step with
  | 0 => some (c, pins)
  | 1 =>
    let c := _w65816_adc c (_GD pins)
    some (c, pins)
  | 2 =>
    let pins := _FETCH c pins
    some (c, pins)
  | _ => none

/-- Decoder cases `(0x73<<3)|0..7`: ADC (d,s),y (lines 1748-1755). -/
def op_73 (step : Nat) (c : w65816_t) (pins : Nat) : Option (w65816_t × Nat) :=
  match step with
  | 0 => some (c, pins)
  | 1 =>
    let c := _w65816_adc c (_GD pins)
    some (c, pins)
  | 2 =>
    let pins := _FETCH c pins
    some (c, pins)
  | _ => none

/-- Decoder cases `(0x74<<3)|0..7`: STZ d,x (lines 1757-1764). -/
def op_74 (step : Nat) (c : w65816_t) (pins : Nat) : Option (w65816_t × Nat) :=
  match step with
  | 0 =>
    let pins := _VPA pins
    let pins := _SA pins c.PC
    let c := { c with PC := (c.PC + 1) % 65536 }
    some (c, pins)
  | 1 =>
    let c := { c with AD := _GD pins }
    let pins := _SA pins c.AD
    some (c, pins)
  | 2 =>
    let pins := _VDA pins
    let pins := if _E c then (let pins := _SA pins ((c.AD + _X c) &&& 0x00FF); pins) else (let pins := _SA pins (c.AD + _X c); pins)
    let pins := _VDA pins
    let pins := _SD pins 0
    let pins := _WR pins
    some (c, pins)
  | 3 =>
    let pins := if _a8 c then (let pins := _FETCH c pins; pins) else (let pins := _VDA pins; let pins := _SALD pins ((_GAL pins + 1) % 0x100000000) 0; let pins := _WR pins; pins)
    some (c, pins)
  | 4 =>
    let pins := _FETCH c pins
    some (c, pins)
  | _ => none

/-- Decoder cases `(0x75<<3)|0..7`: ADC d,x (lines 1766-1773). -/
def op_75 (step : Nat) (c : w65816_t) (pins : Nat) : Option (w65816_t × Nat) :=
  match step with
  | 0 =>
    let pins := _VPA pins
    let pins := _SA pins c.PC
    let c := { c with PC := (c.PC + 1) % 65536 }
    some (c, pins)
  | 1 =>
    let c := { c with AD := _GD pins }
    let pins := _SA pins c.AD
    some (c, pins)
  | 2 =>
    let pins := _VDA pins
    let pins := if _E c then (let pins := _SA pins ((c.AD + _X c) &&& 0x00FF); pins) else (let pins := _SA pins (c.AD + _X c); pins)
    some (c, pins)
  | 3 =>
    let c := _w65816_adc c (_GD pins)
    let pins := _FETCH c pins
    some (c, pins)
  | _ => none

/-- Decoder cases `(0x76<<3)|0..7`: ROR d,x (lines 1775-1782). -/
def op_76 (step : Nat) (c : w65816_t) (pins : Nat) : Option (w65816_t × Nat) :=
  match step with
  | 0 =>
    let pins := _VPA pins
    let pins := _SA pins c.PC
    let c := { c with PC := (c.PC + 1) % 65536 }
    some (c, pins)
  | 1 =>
    let c := { c with AD := _GD pins }
    let pins := _SA pins c.AD
    some (c, pins)
  | 2 =>
    let pins := _VDA pins
    let pins := if _E c then (let pins := _SA pins ((c.AD + _X c) &&& 0x00FF); pins) else (let pins := _SA pins (c.AD + _X c); pins)
    some (c, pins)
  | 3 =>
    let pins := _VDA pins
    let c := { c with AD := _GD pins }
    let pins := _WR pins
    some (c, pins)
  | 4 =>
    let pins := _VDA pins
    let r := _w65816_ror c c.AD
    let c := r.1
    let pins := _SD pins r.2
    let pins := _WR pins
    some (c, pins)
  | 5 =>
    let pins := _FETCH c pins
    some (c, pins)
  | _ => none

/-- Decoder cases `(0x77<<3)|0..7`: ADC [d],y (lines 1784-1791). -/
def op_77 (step : Nat) (c : w65816_t) (pins : Nat) : Option (w65816_t × Nat) :=
  match step with
  | 0 => some (c, pins)
  | 1 =>
    let c := _w65816_adc c (_GD pins)
    some (c, pins)
  | 2 =>
    let pins := _FETCH c pins
    some (c, pins)
  | _ => none

/-- Decoder cases `(0x78<<3)|0..7`: SEI i (lines 1793-1800). -/
def op_78 (step : Nat) (c : w65816_t) (pins : Nat) : Option (w65816_t × Nat) :=
  match step with
  | 0 =>
    let pins := _SA pins c.PC
    some (c, pins)
  | 1 =>
    let c := { c with P := (c.P ||| 0x4) % 256 }
    let pins := _FETCH c pins
    some (c, pins)
  | _ => none

/-- Decoder cases `(0x79<<3)|0..7`: ADC a,y (lines 1802-1809). -/
def op_79 (step : Nat) (c : w65816_t) (pins : Nat) : Option (w65816_t × Nat) :=
  match step with
  | 0 =>
    let pins := _VPA pins
    let pins := _SA pins c.PC
    let c := { c with PC := (c.PC + 1) % 65536 }
    some (c, pins)
  | 1 =>
    let pins := _VPA pins
    let pins := _SA pins c.PC
    let c := { c with PC := (c.PC + 1) % 65536 }
    let c := { c with AD := _GD pins }
    some (c, pins)
  | 2 =>
    let c := { c with AD := (c.AD ||| (_GD pins <<< 8)) % 65536 }
    let pins := _SA pins ((c.AD &&& 0xFF00) ||| ((c.AD + _Y c) &&& 0xFF))
    let c := { c with IR := (c.IR + (NOT32 (SUB32 (c.AD >>> 8) ((c.AD + _Y c) >>> 8)) &&& 1)) % 65536 }
    some (c, pins)
  | 3 =>
    let pins := _VDA pins
    let pins := _SA pins (c.AD + _Y c)
    some (c, pins)
  | 4 =>
    let c := _w65816_adc c (_GD pins)
    let pins := _FETCH c pins
    some (c, pins)
  | _ => none

/-- Decoder cases `(0x7A<<3)|0..7`: PLY s (lines 1811-1818). -/
def op_7A (step : Nat) (c : w65816_t) (pins : Nat) : Option (w65816_t × Nat) :=
  match step with
  | 0 =>
    let pins := _SA pins c.PC
    some (c, pins)
  | 1 =>
    let pins := _SA pins c.PC
    some (c, pins)
  | 2 =>
    let pins := _VDA pins
    let c := set_S c (_S c + 1)
    let pins := _SA pins (0x0100 ||| _S c)
    some (c, pins)
  | 3 =>
    let c := set_Y c (_GD pins)
    let c := _NZ c (_Y c)
    let pins := _FETCH c pins
    some (c, pins)
  | _ => none

/-- Decoder cases `(0x7B<<3)|0..7`: TDC i (lines 1820-1827). -/
def op_7B (step : Nat) (c : w65816_t) (pins : Nat) : Option (w65816_t × Nat) :=
  match step with
  | 0 =>
    let pins := _SA pins c.PC
    some (c, pins)
  | 1 =>
    let c := { c with C := c.D }
    let c := _NZ c c.C
    let pins := _FETCH c pins
    some (c, pins)
  | _ => none

/-- Decoder cases `(0x7C<<3)|0..7`: JMP (a,x) (lines 1829-1836). -/
def op_7C (step : Nat) (c : w65816_t) (pins : Nat) : Option (w65816_t × Nat) :=
  match step with
  | 0 =>
    let pins := _VPA pins
    let pins := _SA pins c.PC
    let c := { c with PC := (c.PC + 1) % 65536 }
    some (c, pins)
  | 1 =>
    let pins := _VPA pins
    let pins := _SA pins c.PC
    let c := { c with PC := (c.PC + 1) % 65536 }
    let c := { c with AD := _GD pins }
    some (c, pins)
  | 2 =>
    let pins := _VDA pins
    let c := { c with AD := (c.AD ||| (_GD pins <<< 8)) % 65536 }
    let pins := _SA pins c.AD
    some (c, pins)
  | 3 =>
    let pins := _VDA pins
    let pins := _SA pins ((c.AD &&& 0xFF00) ||| ((c.AD + 1) &&& 0x00FF))
    let c := { c with AD := _GD pins }
    some (c, pins)
  | 4 =>
    let c := { c with PC := ((_GD pins <<< 8) ||| c.AD) % 65536 }
    let pins := _FETCH c pins
    some (c, pins)
  | _ => none

/-- Decoder cases `(0x7D<<3)|0..7`: ADC a,x (lines 1838-1845). -/
def op_7D (step : Nat) (c : w65816_t) (pins : Nat) : Option (w65816_t × Nat) :=
  match step with
  | 0 =>
    let pins := _VPA pins
    let pins := _SA pins c.PC
    let c := { c with PC := (c.PC + 1) % 65536 }
    some (c, pins)
  | 1 =>
    let pins := _VPA pins
    let pins := _SA pins c.PC
    let c := { c with PC := (c.PC + 1) % 65536 }
    let c := { c with AD := _GD pins }
    some (c, pins)
  | 2 =>
    let c := { c with AD := (c.AD ||| (_GD pins <<< 8)) % 65536 }
    let pins := _SA pins ((c.AD &&& 0xFF00) ||| ((c.AD + _X c) &&& 0xFF))
    let c := { c with IR := (c.IR + (NOT32 (SUB32 (c.AD >>> 8) ((c.AD + _X c) >>> 8)) &&& 1)) % 65536 }
    some (c, pins)
  | 3 =>
    let pins := _VDA pins
    let pins := _SA pins (c.AD + _X c)
    some (c, pins)
  | 4 =>
    let c := _w65816_adc c (_GD pins)
    let pins := _FETCH c pins
    some (c, pins)
  | _ => none

/-- Decoder cases `(0x7E<<3)|0..7`: ROR a,x (lines 1847-1854). -/
def op_7E (step : Nat) (c : w65816_t) (pins : Nat) : Option (w65816_t × Nat) :=
  match step with
  | 0 =>
    let pins := _VPA pins
    let pins := _SA pins c.PC
    let c := { c with PC := (c.PC + 1) % 65536 }
    some (c, pins)
  | 1 =>
    let pins := _VPA pins
    let pins := _SA pins c.PC
    let c := { c with PC := (c.PC + 1) % 65536 }
    let c := { c with AD := _GD pins }
    some (c, pins)
  | 2 =>
    let c := { c with AD := (c.AD ||| (_GD pins <<< 8)) % 65536 }
    let pins := _SA pins ((c.AD &&& 0xFF00) ||| ((c.AD + _X c) &&& 0xFF))
    some (c, pins)
  | 3 =>
    let pins := _VDA pins
    let pins := _SA pins (c.AD + _X c)
    some (c, pins)
  | 4 =>
    let pins := _VDA pins
    let c := { c with AD := _GD pins }
    let pins := _WR pins
    some (c, pins)
  | 5 =>
    let pins := _VDA pins
    let r := _w65816_ror c c.AD
    let c := r.1
    let pins := _SD pins r.2
    let pins := _WR pins
    some (c, pins)
  | 6 =>
    let pins := _FETCH c pins
    some (c, pins)
  | _ => none

/-- Decoder cases `(0x7F<<3)|0..7`: ADC al,x (lines 1856-1863). -/
def op_7F (step : Nat) (c : w65816_t) (pins : Nat) : Option (w65816_t × Nat) :=
  match step with
  | 0 => some (c, pins)
  | 1 =>
    let c := _w65816_adc c (_GD pins)
    some (c, pins)
  | 2 =>
    let pins := _FETCH c pins
    some (c, pins)
  | _ => none

/-- Decoder cases `(0x80<<3)|0..7`: BRA r (lines 1865-1872). -/
def op_80 (step : Nat) (c : w65816_t) (pins : Nat) : Option (w65816_t × Nat) :=
  match step with
  | 0 =>
    let pins := _VPA pins
    let pins := _SA pins c.PC
    let c := { c with PC := (c.PC + 1) % 65536 }
    some (c, pins)
  | 1 =>
    let pins := _SA pins c.PC
    let c := { c with AD := (c.PC + SEXT8 (_GD pins)) % 65536 }
    some (c, pins)
  | 2 =>
    let pins := _SA pins ((c.PC &&& 0xFF00) ||| (c.AD &&& 0x00FF))
    let r := if (c.AD &&& 0xFF00) = (c.PC &&& 0xFF00) then (let c := { c with PC := c.AD }; let c := { c with irq_pip := c.irq_pip >>> 1 }; let c := { c with nmi_pip := c.nmi_pip >>> 1 }; let pins := _FETCH c pins; (c, pins)) else (c, pins)
    let c := r.1
    let pins := r.2
    some (c, pins)
  | 3 =>
    let c := { c with PC := c.AD }
    let pins := _FETCH c pins
    some (c, pins)
  | _ => none

/-- Decoder cases `(0x81<<3)|0..7`: STA (d,x) (lines 1874-1881). -/
def op_81 (step : Nat) (c : w65816_t) (pins : Nat) : Option (w65816_t × Nat) :=
  match step with
  | 0 =>
    let pins := _VPA pins
    let pins := _SA pins c.PC
    let c := { c with PC := (c.PC + 1) % 65536 }
    some (c, pins)
  | 1 =>
    let c := { c with AD := _GD pins }
    let pins := _SA pins c.AD
    some (c, pins)
  | 2 =>
    let pins := _VDA pins
    let c := { c with AD := (c.AD + _X c) &&& 0xFF }
    let pins := _SA pins c.AD
    some (c, pins)
  | 3 =>
    let pins := _VDA pins
    let pins := _SA pins ((c.AD + 1) &&& 0xFF)
    let c := { c with AD := _GD pins }
    some (c, pins)
  | 4 =>
    let pins := _VDA pins
    let pins := _SA pins ((_GD pins <<< 8) ||| c.AD)
    let pins := _VDA pins
    let pins := _SD pins (_A c)
    let pins := _WR pins
    some (c, pins)
  | 5 =>
    let pins := if _a8 c then (let pins := _FETCH c pins; pins) else (let pins := _VDA pins; let pins := _SALD pins ((_GAL pins + 1) % 0x100000000) (_B c); let pins := _WR pins; pins)
    some (c, pins)
  | 6 =>
    let pins := _FETCH c pins
    some (c, pins)
  | _ => none

/-- Decoder cases `(0x82<<3)|0..7`: BRL rl (unimpl) (lines 1883-1890). -/
def op_82 (step : Nat) (c : w65816_t) (pins : Nat) : Option (w65816_t × Nat) :=
  match step with
  | 0 =>
    let pins := _FETCH c pins
    some (c, pins)
  | _ => none

/-- Decoder cases `(0x83<<3)|0..7`: STA d,s (lines 1892-1899). -/
def op_83 (step : Nat) (c : w65816_t) (pins : Nat) : Option (w65816_t × Nat) :=
  match step with
  | 0 =>
    let pins := _VDA pins
    let pins := _SD pins (_A c)
    let pins := _WR pins
    some (c, pins)
  | 1 =>
    let pins := if _a8 c then (let pins := _FETCH c pins; pins) else (let pins := _VDA pins; let pins := _SALD pins ((_GAL pins + 1) % 0x100000000) (_B c); let pins := _WR pins; pins)
    some (c, pins)
  | 2 =>
    let pins := _FETCH c pins
    some (c, pins)
  | _ => none

/-- Decoder cases `(0x84<<3)|0..7`: STY d (lines 1901-1908). -/
def op_84 (step : Nat) (c : w65816_t) (pins : Nat) : Option (w65816_t × Nat) :=
  match step with
  | 0 =>
    let pins := _VPA pins
    let pins := _SA pins c.PC
    let c := { c with PC := (c.PC + 1) % 65536 }
    some (c, pins)
  | 1 =>
    let pins := _VDA pins
    let pins := _SA pins (_GD pins)
    let pins := _VDA pins
    let pins := _SD pins (_Y c)
    let pins := _WR pins
    some (c, pins)
  | 2 =>
    let pins := if _i8 c then (let pins := _FETCH c pins; pins) else (let pins := _VDA pins; let pins := _SALD pins ((_GAL pins + 1) % 0x100000000) (_YH c); let pins := _WR pins; pins)
    some (c, pins)
  | 3 =>
    let pins := _FETCH c pins
    some (c, pins)
  | _ => none

/-- Decoder cases `(0x85<<3)|0..7`: STA d (lines 1910-1917). -/
def op_85 (step : Nat) (c : w65816_t) (pins : Nat) : Option (w65816_t × Nat) :=
  match step with
  | 0 =>
    let pins := _VPA pins
    let pins := _SA pins c.PC
    let c := { c with PC := (c.PC + 1) % 65536 }
    some (c, pins)
  | 1 =>
    let pins := _VDA pins
    let pins := _SA pins (_GD pins)
    let pins := _VDA pins
    let pins := _SD pins (_A c)
    let pins := _WR pins
    some (c, pins)
  | 2 =>
    let pins := if _a8 c then (let pins := _FETCH c pins; pins) else (let pins := _VDA pins; let pins := _SALD pins ((_GAL pins + 1) % 0x100000000) (_B c); let pins := _WR pins; pins)
    some (c, pins)
  | 3 =>
    let pins := _FETCH c pins
    some (c, pins)
  | _ => none

/-- Decoder cases `(0x86<<3)|0..7`: STX d (lines 1919-1926). -/
def op_86 (step : Nat) (c : w65816_t) (pins : Nat) : Option (w65816_t × Nat) :=
  match step with
  | 0 =>
    let pins := _VPA pins
    let pins := _SA pins c.PC
    let c := { c with PC := (c.PC + 1) % 65536 }
    some (c, pins)
  | 1 =>
    let pins := _VDA pins
    let pins := _SA pins (_GD pins)
    let pins := _VDA pins
    let pins := _SD pins (_X c)
    let pins := _WR pins
    some (c, pins)
  | 2 =>
    let pins := if _i8 c then (let pins := _FETCH c pins; pins) else (let pins := _VDA pins; let pins := _SALD pins ((_GAL pins + 1) % 0x100000000) (_XH c); let pins := _WR pins; pins)
    some (c, pins)
  | 3 =>
    let pins := _FETCH c pins
    some (c, pins)
  | _ => none

/-- Decoder cases `(0x87<<3)|0..7`: STA [d] (lines 1928-1935). -/
def op_87 (step : Nat) (c : w65816_t) (pins : Nat) : Option (w65816_t × Nat) :=
  match step with
  | 0 =>
    let pins := _VDA pins
    let pins := _SD pins (_A c)
    let pins := _WR pins
    some (c, pins)
  | 1 =>
    let pins := if _a8 c then (let pins := _FETCH c pins; pins) else (let pins := _VDA pins; let pins := _SALD pins ((_GAL pins + 1) % 0x100000000) (_B c); let pins := _WR pins; pins)
    some (c, pins)
  | 2 =>
    let pins := _FETCH c pins
    some (c, pins)
  | _ => none

/-- Decoder cases `(0x88<<3)|0..7`: DEY i (lines 1937-1944). -/
def op_88 (step : Nat) (c : w65816_t) (pins : Nat) : Option (w65816_t × Nat) :=
  match step with
  | 0 =>
    let pins := _SA pins c.PC
    some (c, pins)
  | 1 =>
    let c := set_Y c (_Y c + 255)
    let c := _NZ c (_Y c)
    let pins := _FETCH c pins
    some (c, pins)
  | _ => none

/-- Decoder cases `(0x89<<3)|0..7`: BIT # (lines 1946-1953). -/
def op_89 (step : Nat) (c : w65816_t) (pins : Nat) : Option (w65816_t × Nat) :=
  match step with
  | 0 =>
    let pins := _VPA pins
    let pins := _SA pins c.PC
    let c := { c with PC := (c.PC + 1) % 65536 }
    some (c, pins)
  | 1 =>
    let c := _w65816_bit c (_GD pins)
    let pins := _FETCH c pins
    some (c, pins)
  | _ => none

/-- Decoder cases `(0x8A<<3)|0..7`: TXA i (lines 1955-1962). -/
def op_8A (step : Nat) (c : w65816_t) (pins : Nat) : Option (w65816_t × Nat) :=
  match step with
  | 0 =>
    let pins := _SA pins c.PC
    some (c, pins)
  | 1 =>
    let c := set_A c (_X c)
    let c := _NZ c (_A c)
    let pins := _FETCH c pins
    some (c, pins)
  | _ => none

/-- Decoder cases `(0x8B<<3)|0..7`: PHB s (lines 1964-1971). -/
def op_8B (step : Nat) (c : w65816_t) (pins : Nat) : Option (w65816_t × Nat) :=
  match step with
  | 0 =>
    let pins := _SA pins c.PC
    some (c, pins)
  | 1 =>
    let pins := _VDA pins
    let pins := _SAD pins (0x0100 ||| _S c) c.DBR
    let c := set_S c (_S c + 255)
    let pins := _WR pins
    some (c, pins)
  | 2 =>
    let pins := _FETCH c pins
    some (c, pins)
  | _ => none

/-- Decoder cases `(0x8C<<3)|0..7`: STY a (lines 1973-1980). -/
def op_8C (step : Nat) (c : w65816_t) (pins : Nat) : Option (w65816_t × Nat) :=
  match step with
  | 0 =>
    let pins := _VPA pins
    let pins := _SA pins c.PC
    let c := { c with PC := (c.PC + 1) % 65536 }
    some (c, pins)
  | 1 =>
    let pins := _VPA pins
    let pins := _SA pins c.PC
    let c := { c with PC := (c.PC + 1) % 65536 }
    let c := { c with AD := _GD pins }
    some (c, pins)
  | 2 =>
    let pins := _SA pins ((_GD pins <<< 8) ||| c.AD)
    let pins := _VDA pins
    let pins := _SD pins (_Y c)
    let pins := _WR pins
    some (c, pins)
  | 3 =>
    let pins := if _i8 c then (let pins := _FETCH c pins; pins) else (let pins := _VDA pins; let pins := _SALD pins ((_GAL pins + 1) % 0x100000000) (_YH c); let pins := _WR pins; pins)
    some (c, pins)
  | 4 =>
    let pins := _FETCH c pins
    some (c, pins)
  | _ => none

/-- Decoder cases `(0x8D<<3)|0..7`: STA a (lines 1982-1989). -/
def op_8D (step : Nat) (c : w65816_t) (pins : Nat) : Option (w65816_t × Nat) :=
  match step with
  | 0 =>
    let pins := _VPA pins
    let pins := _SA pins c.PC
    let c := { c with PC := (c.PC + 1) % 65536 }
    some (c, pins)
  | 1 =>
    let pins := _VPA pins
    let pins := _SA pins c.PC
    let c := { c with PC := (c.PC + 1) % 65536 }
    let c := { c with AD := _GD pins }
    some (c, pins)
  | 2 =>
    let pins := _SA pins ((_GD pins <<< 8) ||| c.AD)
    let pins := _VDA pins
    let pins := _SD pins (_A c)
    let pins := _WR pins
    some (c, pins)
  | 3 =>
    let pins := if _a8 c then (let pins := _FETCH c pins; pins) else (let pins := _VDA pins; let pins := _SALD pins ((_GAL pins + 1) % 0x100000000) (_B c); let pins := _WR pins; pins)
    some (c, pins)
  | 4 =>
    let pins := _FETCH c pins
    some (c, pins)
  | _ => none

/-- Decoder cases `(0x8E<<3)|0..7`: STX a (lines 1991-1998). -/
def op_8E (step : Nat) (c : w65816_t) (pins : Nat) : Option (w65816_t × Nat) :=
  match step with
  | 0 =>
    let pins := _VPA pins
    let pins := _SA pins c.PC
    let c := { c with PC := (c.PC + 1) % 65536 }
    some (c, pins)
  | 1 =>
    let pins := _VPA pins
    let pins := _SA pins c.PC
    let c := { c with PC := (c.PC + 1) % 65536 }
    let c := { c with AD := _GD pins }
    some (c, pins)
  | 2 =>
    let pins := _SA pins ((_GD pins <<< 8) ||| c.AD)
    let pins := _VDA pins
    let pins := _SD pins (_X c)
    let pins := _WR pins
    some (c, pins)
  | 3 =>
    let pins := if _i8 c then (let pins := _FETCH c pins; pins) else (let pins := _VDA pins; let pins := _SALD pins ((_GAL pins + 1) % 0x100000000) (_XH c); let pins := _WR pins; pins)
    some (c, pins)
  | 4 =>
    let pins := _FETCH c pins
    some (c, pins)
  | _ => none

/-- Decoder cases `(0x8F<<3)|0..7`: STA al (lines 2000-2007). -/
def op_8F (step : Nat) (c : w65816_t) (pins : Nat) : Option (w65816_t × Nat) :=
  match step with
  | 0 =>
    let pins := _VDA pins
    let pins := _SD pins (_A c)
    let pins := _WR pins
    some (c, pins)
  | 1 =>
    let pins := if _a8 c then (let pins := _FETCH c pins; pins) else (let pins := _VDA pins; let pins := _SALD pins ((_GAL pins + 1) % 0x100000000) (_B c); let pins := _WR pins; pins)
    some (c, pins)
  | 2 =>
    let pins := _FETCH c pins
    some (c, pins)
  | _ => none

/-- Decoder cases `(0x90<<3)|0..7`: BCC r (lines 2009-2016). -/
def op_90 (step : Nat) (c : w65816_t) (pins : Nat) : Option (w65816_t × Nat) :=
  match step with
  | 0 =>
    let pins := _VPA pins
    let pins := _SA pins c.PC
    let c := { c with PC := (c.PC + 1) % 65536 }
    some (c, pins)
  | 1 =>
    let pins := _SA pins c.PC
    let c := { c with AD := (c.PC + SEXT8 (_GD pins)) % 65536 }
    let pins := if (c.P &&& 0x1) ≠ 0x0 then (let pins := _FETCH c pins; pins) else pins
    some (c, pins)
  | 2 =>
    let pins := _SA pins ((c.PC &&& 0xFF00) ||| (c.AD &&& 0x00FF))
    let r := if (c.AD &&& 0xFF00) = (c.PC &&& 0xFF00) then (let c := { c with PC := c.AD }; let c := { c with irq_pip := c.irq_pip >>> 1 }; let c := { c with nmi_pip := c.nmi_pip >>> 1 }; let pins := _FETCH c pins; (c, pins)) else (c, pins)
    let c := r.1
    let pins := r.2
    some (c, pins)
  | 3 =>
    let c := { c with PC := c.AD }
    let pins := _FETCH c pins
    some (c, pins)
  | _ => none

/-- Decoder cases `(0x91<<3)|0..7`: STA (d),y (lines 2018-2025). -/
def op_91 (step : Nat) (c : w65816_t) (pins : Nat) : Option (w65816_t × Nat) :=
  match step with
  | 0 =>
    let pins := _VPA pins
    let pins := _SA pins c.PC
    let c := { c with PC := (c.PC + 1) % 65536 }
    some (c, pins)
  | 1 =>
    let pins := _VDA pins
    let c := { c with AD := _GD pins }
    let pins := _SA pins c.AD
    some (c, pins)
  | 2 =>
    let pins := _VDA pins
    let pins := _SA pins ((c.AD + 1) &&& 0xFF)
    let c := { c with AD := _GD pins }
    some (c, pins)
  | 3 =>
    let c := { c with AD := (c.AD ||| (_GD pins <<< 8)) % 65536 }
    let pins := _SA pins ((c.AD &&& 0xFF00) ||| ((c.AD + _Y c) &&& 0xFF))
    some (c, pins)
  | 4 =>
    let pins := _VDA pins
    let pins := _SA pins (c.AD + _Y c)
    let pins := _VDA pins
    let pins := _SD pins (_A c)
    let pins := _WR pins
    some (c, pins)
  | 5 =>
    let pins := if _a8 c then (let pins := _FETCH c pins; pins) else (let pins := _VDA pins; let pins := _SALD pins ((_GAL pins + 1) % 0x100000000) (_B c); let pins := _WR pins; pins)
    some (c, pins)
  | 6 =>
    let pins := _FETCH c pins
    some (c, pins)
  | _ => none

/-- Decoder cases `(0x92<<3)|0..7`: STA (d) (lines 2027-2034). -/
def op_92 (step : Nat) (c : w65816_t) (pins : Nat) : Option (w65816_t × Nat) :=
  match step with
  | 0 =>
    let pins := _VDA pins
    let pins := _SD pins (_A c)
    let pins := _WR pins
    some (c, pins)
  | 1 =>
    let pins := if _a8 c then (let pins := _FETCH c pins; pins) else (let pins := _VDA pins; let pins := _SALD pins ((_GAL pins + 1) % 0x100000000) (_B c); let pins := _WR pins; pins)
    some (c, pins)
  | 2 =>
    let pins := _FETCH c pins
    some (c, pins)
  | _ => none

/-- Decoder cases `(0x93<<3)|0..7`: STA (d,s),y (lines 2036-2043). -/
def op_93 (step : Nat) (c : w65816_t) (pins : Nat) : Option (w65816_t × Nat) :=
  match step with
  | 0 =>
    let pins := _VDA pins
    let pins := _SD pins (_A c)
    let pins := _WR pins
    some (c, pins)
  | 1 =>
    let pins := if _a8 c then (let pins := _FETCH c pins; pins) else (let pins := _VDA pins; let pins := _SALD pins ((_GAL pins + 1) % 0x100000000) (_B c); let pins := _WR pins; pins)
    some (c, pins)
  | 2 =>
    let pins := _FETCH c pins
    some (c, pins)
  | _ => none

/-- Decoder cases `(0x94<<3)|0..7`: STY d,x (lines 2045-2052). -/
def op_94 (step : Nat) (c : w65816_t) (pins : Nat) : Option (w65816_t × Nat) :=
  match step with
  | 0 =>
    let pins := _VPA pins
    let pins := _SA pins c.PC
    let c := { c with PC := (c.PC + 1) % 65536 }
    some (c, pins)
  | 1 =>
    let c := { c with AD := _GD pins }
    let pins := _SA pins c.AD
    some (c, pins)
  | 2 =>
    let pins := _VDA pins
    let pins := if _E c then (let pins := _SA pins ((c.AD + _X c) &&& 0x00FF); pins) else (let pins := _SA pins (c.AD + _X c); pins)
    let pins := _VDA pins
    let pins := _SD pins (_Y c)
    let pins := _WR pins
    some (c, pins)
  | 3 =>
    let pins := if _i8 c then (let pins := _FETCH c pins; pins) else (let pins := _VDA pins; let pins := _SALD pins ((_GAL pins + 1) % 0x100000000) (_YH c); let pins := _WR pins; pins)
    some (c, pins)
  | 4 =>
    let pins := _FETCH c pins
    some (c, pins)
  | _ => none

/-- Decoder cases `(0x95<<3)|0..7`: STA d,x (lines 2054-2061). -/
def op_95 (step : Nat) (c : w65816_t) (pins : Nat) : Option (w65816_t × Nat) :=
  match step with
  | 0 =>
    let pins := _VPA pins
    let pins := _SA pins c.PC
    let c := { c with PC := (c.PC + 1) % 65536 }
    some (c, pins)
  | 1 =>
    let c := { c with AD := _GD pins }
    let pins := _SA pins c.AD
    some (c, pins)
  | 2 =>
    let pins := _VDA pins
    let pins := if _E c then (let pins := _SA pins ((c.AD + _X c) &&& 0x00FF); pins) else (let pins := _SA pins (c.AD + _X c); pins)
    let pins := _VDA pins
    let pins := _SD pins (_A c)
    let pins := _WR pins
    some (c, pins)
  | 3 =>
    let pins := if _a8 c then (let pins := _FETCH c pins; pins) else (let pins := _VDA pins; let pins := _SALD pins ((_GAL pins + 1) % 0x100000000) (_B c); let pins := _WR pins; pins)
    some (c, pins)
  | 4 =>
    let pins := _FETCH c pins
    some (c, pins)
  | _ => none

/-- Decoder cases `(0x96<<3)|0..7`: STX d,y (lines 2063-2070). -/
def op_96 (step : Nat) (c : w65816_t) (pins : Nat) : Option (w65816_t × Nat) :=
  match step with
  | 0 =>
    let pins := _VPA pins
    let pins := _SA pins c.PC
    let c := { c with PC := (c.PC + 1) % 65536 }
    some (c, pins)
  | 1 =>
    let c := { c with AD := _GD pins }
    let pins := _SA pins c.AD
    some (c, pins)
  | 2 =>
    let pins := _VDA pins
    let pins := if _E c then (let pins := _SA pins ((c.AD + _Y c) &&& 0x00FF); pins) else (let pins := _SA pins (c.AD + _Y c); pins)
    let pins := _VDA pins
    let pins := _SD pins (_X c)
    let pins := _WR pins
    some (c, pins)
  | 3 =>
    let pins := if _i8 c then (let pins := _FETCH c pins; pins) else (let pins := _VDA pins; let pins := _SALD pins ((_GAL pins + 1) % 0x100000000) (_XH c); let pins := _WR pins; pins)
    some (c, pins)
  | 4 =>
    let pins := _FETCH c pins
    some (c, pins)
  | _ => none

/-- Decoder cases `(0x97<<3)|0..7`: STA [d],y (lines 2072-2079). -/
def op_97 (step : Nat) (c : w65816_t) (pins : Nat) : Option (w65816_t × Nat) :=
  match step with
  | 0 =>
    let pins := _VDA pins
    let pins := _SD pins (_A c)
    let pins := _WR pins
    some (c, pins)
  | 1 =>
    let pins := if _a8 c then (let pins := _FETCH c pins; pins) else (let pins := _VDA pins; let pins := _SALD pins ((_GAL pins + 1) % 0x100000000) (_B c); let pins := _WR pins; pins)
    some (c, pins)
  | 2 =>
    let pins := _FETCH c pins
    some (c, pins)
  | _ => none

/-- Decoder cases `(0x98<<3)|0..7`: TYA i (lines 2081-2088). -/
def op_98 (step : Nat) (c : w65816_t) (pins : Nat) : Option (w65816_t × Nat) :=
  match step with
  | 0 =>
    let pins := _SA pins c.PC
    some (c, pins)
  | 1 =>
    let c := set_A c (_Y c)
    let c := _NZ c (_A c)
    let pins := _FETCH c pins
    some (c, pins)
  | _ => none

/-- Decoder cases `(0x99<<3)|0..7`: STA a,y (lines 2090-2097). -/
def op_99 (step : Nat) (c : w65816_t) (pins : Nat) : Option (w65816_t × Nat) :=
  match step with
  | 0 =>
    let pins := _VPA pins
    let pins := _SA pins c.PC
    let c := { c with PC := (c.PC + 1) % 65536 }
    some (c, pins)
  | 1 =>
    let pins := _VPA pins
    let pins := _SA pins c.PC
    let c := { c with PC := (c.PC + 1) % 65536 }
    let c := { c with AD := _GD pins }
    some (c, pins)
  | 2 =>
    let c := { c with AD := (c.AD ||| (_GD pins <<< 8)) % 65536 }
    let pins := _SA pins ((c.AD &&& 0xFF00) ||| ((c.AD + _Y c) &&& 0xFF))
    some (c, pins)
  | 3 =>
    let pins := _VDA pins
    let pins := _SA pins (c.AD + _Y c)
    let pins := _VDA pins
    let pins := _SD pins (_A c)
    let pins := _WR pins
    some (c, pins)
  | 4 =>
    let pins := if _a8 c then (let pins := _FETCH c pins; pins) else (let pins := _VDA pins; let pins := _SALD pins ((_GAL pins + 1) % 0x100000000) (_B c); let pins := _WR pins; pins)
    some (c, pins)
  | 5 =>
    let pins := _FETCH c pins
    some (c, pins)
  | _ => none

/-- Decoder cases `(0x9A<<3)|0..7`: TXS i (lines 2099-2106). -/
def op_9A (step : Nat) (c : w65816_t) (pins : Nat) : Option (w65816_t × Nat) :=
  match step with
  | 0 =>
    let pins := _SA pins c.PC
    some (c, pins)
  | 1 =>
    let c := set_S c (_X c)
    let pins := _FETCH c pins
    some (c, pins)
  | _ => none

/-- Decoder cases `(0x9B<<3)|0..7`: TXY i (lines 2108-2115). -/
def op_9B (step : Nat) (c : w65816_t) (pins : Nat) : Option (w65816_t × Nat) :=
  match step with
  | 0 =>
    let pins := _SA pins c.PC
    some (c, pins)
  | 1 =>
    let c := set_Y c (_X c)
    let c := _NZ c (_Y c)
    let pins := _FETCH c pins
    some (c, pins)
  | _ => none

/-- Decoder cases `(0x9C<<3)|0..7`: STZ a (lines 2117-2124). -/
def op_9C (step : Nat) (c : w65816_t) (pins : Nat) : Option (w65816_t × Nat) :=
  match step with
  | 0 =>
    let pins := _VPA pins
    let pins := _SA pins c.PC
    let c := { c with PC := (c.PC + 1) % 65536 }
    some (c, pins)
  | 1 =>
    let pins := _VPA pins
    let pins := _SA pins c.PC
    let c := { c with PC := (c.PC + 1) % 65536 }
    let c := { c with AD := _GD pins }
    some (c, pins)
  | 2 =>
    let pins := _SA pins ((_GD pins <<< 8) ||| c.AD)
    let pins := _VDA pins
    let pins := _SD pins 0
    let pins := _WR pins
    some (c, pins)
  | 3 =>
    let pins := if _a8 c then (let pins := _FETCH c pins; pins) else (let pins := _VDA pins; let pins := _SALD pins ((_GAL pins + 1) % 0x100000000) 0; let pins := _WR pins; pins)
    some (c, pins)
  | 4 =>
    let pins := _FETCH c pins
    some (c, pins)
  | _ => none

/-- Decoder cases `(0x9D<<3)|0..7`: STA a,x (lines 2126-2133). -/
def op_9D (step : Nat) (c : w65816_t) (pins : Nat) : Option (w65816_t × Nat) :=
  match step with
  | 0 =>
    let pins := _VPA pins
    let pins := _SA pins c.PC
    let c := { c with PC := (c.PC + 1) % 65536 }
    some (c, pins)
  | 1 =>
    let pins := _VPA pins
    let pins := _SA pins c.PC
    let c := { c with PC := (c.PC + 1) % 65536 }
    let c := { c with AD := _GD pins }
    some (c, pins)
  | 2 =>
    let c := { c with AD := (c.AD ||| (_GD pins <<< 8)) % 65536 }
    let pins := _SA pins ((c.AD &&& 0xFF00) ||| ((c.AD + _X c) &&& 0xFF))
    some (c, pins)
  | 3 =>
    let pins := _VDA pins
    let pins := _SA pins (c.AD + _X c)
    let pins := _VDA pins
    let pins := _SD pins (_A c)
    let pins := _WR pins
    some (c, pins)
  | 4 =>
    let pins := if _a8 c then (let pins := _FETCH c pins; pins) else (let pins := _VDA pins; let pins := _SALD pins ((_GAL pins + 1) % 0x100000000) (_B c); let pins := _WR pins; pins)
    some (c, pins)
  | 5 =>
    let pins := _FETCH c pins
    some (c, pins)
  | _ => none

/-- Decoder cases `(0x9E<<3)|0..7`: STZ a,x (lines 2135-2142). -/
def op_9E (step : Nat) (c : w65816_t) (pins : Nat) : Option (w65816_t × Nat) :=
  match step with
  | 0 =>
    let pins := _VPA pins
    let pins := _SA pins c.PC
    let c := { c with PC := (c.PC + 1) % 65536 }
    some (c, pins)
  | 1 =>
    let pins := _VPA pins
    let pins := _SA pins c.PC
    let c := { c with PC := (c.PC + 1) % 65536 }
    let c := { c with AD := _GD pins }
    some (c, pins)
  | 2 =>
    let c := { c with AD := (c.AD ||| (_GD pins <<< 8)) % 65536 }
    let pins := _SA pins ((c.AD &&& 0xFF00) ||| ((c.AD + _X c) &&& 0xFF))
    some (c, pins)
  | 3 =>
    let pins := _VDA pins
    let pins := _SA pins (c.AD + _X c)
    let pins := _VDA pins
    let pins := _SD pins 0
    let pins := _WR pins
    some (c, pins)
  | 4 =>
    let pins := if _a8 c then (let pins := _FETCH c pins; pins) else (let pins := _VDA pins; let pins := _SALD pins ((_GAL pins + 1) % 0x100000000) 0; let pins := _WR pins; pins)
    some (c, pins)
  | 5 =>
    let pins := _FETCH c pins
    some (c, pins)
  | _ => none

/-- Decoder cases `(0x9F<<3)|0..7`: STA al,x (lines 2144-2151). -/
def op_9F (step : Nat) (c : w65816_t) (pins : Nat) : Option (w65816_t × Nat) :=
  match step with
  | 0 =>
    let pins := _VDA pins
    let pins := _SD pins (_A c)
    let pins := _WR pins
    some (c, pins)
  | 1 =>
    let pins := if _a8 c then (let pins := _FETCH c pins; pins) else (let pins := _VDA pins; let pins := _SALD pins ((_GAL pins + 1) % 0x100000000) (_B c); let pins := _WR pins; pins)
    some (c, pins)
  | 2 =>
    let pins := _FETCH c pins
    some (c, pins)
  | _ => none

/-- Decoder cases `(0xA0<<3)|0..7`: LDY # (lines 2153-2160). -/
def op_A0 (step : Nat) (c : w65816_t) (pins : Nat) : Option (w65816_t × Nat) :=
  match step with
  | 0 =>
    let pins := _VPA pins
    let pins := _SA pins c.PC
    let c := { c with PC := (c.PC + 1) % 65536 }
    some (c, pins)
  | 1 =>
    let c := set_Y c (_GD pins)
    let r := if _i8 c then (let c := _NZ c (_Y c); let pins := _FETCH c pins; (c, pins)) else (let pins := _VPA pins; let pins := _SA pins c.PC; let c := { c with PC := (c.PC + 1) % 65536 }; (c, pins))
    let c := r.1
    let pins := r.2
    some (c, pins)
  | 2 =>
    let c := set_YH c (_GD pins)
    let c := _NZ16 c (_Y c)
    let pins := _FETCH c pins
    some (c, pins)
  | _ => none

/-- Decoder cases `(0xA1<<3)|0..7`: LDA (d,x) (lines 2162-2169). -/
def op_A1 (step : Nat) (c : w65816_t) (pins : Nat) : Option (w65816_t × Nat) :=
  match step with
  | 0 =>
    let pins := _VPA pins
    let pins := _SA pins c.PC
    let c := { c with PC := (c.PC + 1) % 65536 }
    some (c, pins)
  | 1 =>
    let c := { c with AD := _GD pins }
    let pins := _SA pins c.AD
    some (c, pins)
  | 2 =>
    let pins := _VDA pins
    let c := { c with AD := (c.AD + _X c) &&& 0xFF }
    let pins := _SA pins c.AD
    some (c, pins)
  | 3 =>
    let pins := _VDA pins
    let pins := _SA pins ((c.AD + 1) &&& 0xFF)
    let c := { c with AD := _GD pins }
    some (c, pins)
  | 4 =>
    let pins := _VDA pins
    let pins := _SA pins ((_GD pins <<< 8) ||| c.AD)
    some (c, pins)
  | 5 =>
    let c := set_A c (_GD pins)
    let r := if _a8 c then (let c := _NZ c (_A c); let pins := _FETCH c pins; (c, pins)) else (let pins := _VDA pins; let pins := _SAL pins ((_GAL pins + 1) % 0x100000000); (c, pins))
    let c := r.1
    let pins := r.2
    some (c, pins)
  | 6 =>
    let c := set_B c (_GD pins)
    let c := _NZ16 c (_C c)
    let pins := _FETCH c pins
    some (c, pins)
  | _ => none

/-- Decoder cases `(0xA2<<3)|0..7`: LDX # (lines 2171-2178). -/
def op_A2 (step : Nat) (c : w65816_t) (pins : Nat) : Option (w65816_t × Nat) :=
  match step with
  | 0 =>
    let pins := _VPA pins
    let pins := _SA pins c.PC
    let c := { c with PC := (c.PC + 1) % 65536 }
    some (c, pins)
  | 1 =>
    let c := set_X c (_GD pins)
    let r := if _i8 c then (let c := _NZ c (_X c); let pins := _FETCH c pins; (c, pins)) else (let pins := _VPA pins; let pins := _SA pins c.PC; let c := { c with PC := (c.PC + 1) % 65536 }; (c, pins))
    let c := r.1
    let pins := r.2
    some (c, pins)
  | 2 =>
    let c := set_XH c (_GD pins)
    let c := _NZ16 c (_X c)
    let pins := _FETCH c pins
    some (c, pins)
  | _ => none

/-- Decoder cases `(0xA3<<3)|0..7`: LDA d,s (lines 2180-2187). -/
def op_A3 (step : Nat) (c : w65816_t) (pins : Nat) : Option (w65816_t × Nat) :=
  match step with
  | 0 => some (c, pins)
  | 1 =>
    let c := set_A c (_GD pins)
    let r := if _a8 c then (let c := _NZ c (_A c); let pins := _FETCH c pins; (c, pins)) else (let pins := _VDA pins; let pins := _SAL pins ((_GAL pins + 1) % 0x100000000); (c, pins))
    let c := r.1
    let pins := r.2
    some (c, pins)
  | 2 =>
    let c := set_B c (_GD pins)
    let c := _NZ16 c (_C c)
    let pins := _FETCH c pins
    some (c, pins)
  | _ => none

/-- Decoder cases `(0xA4<<3)|0..7`: LDY d (lines 2189-2196). -/
def op_A4 (step : Nat) (c : w65816_t) (pins : Nat) : Option (w65816_t × Nat) :=
  match step with
  | 0 =>
    let pins := _VPA pins
    let pins := _SA pins c.PC
    let c := { c with PC := (c.PC + 1) % 65536 }
    some (c, pins)
  | 1 =>
    let pins := _VDA pins
    let pins := _SA pins (_GD pins)
    some (c, pins)
  | 2 =>
    let c := set_Y c (_GD pins)
    let r := if _i8 c then (let c := _NZ c (_Y c); let pins := _FETCH c pins; (c, pins)) else (let pins := _VDA pins; let pins := _SAL pins ((_GAL pins + 1) % 0x100000000); (c, pins))
    let c := r.1
    let pins := r.2
    some (c, pins)
  | 3 =>
    let c := set_YH c (_GD pins)
    let c := _NZ16 c (_Y c)
    let pins := _FETCH c pins
    some (c, pins)
  | _ => none

/-- Decoder cases `(0xA5<<3)|0..7`: LDA d (lines 2198-2205). -/
def op_A5 (step : Nat) (c : w65816_t) (pins : Nat) : Option (w65816_t × Nat) :=
  match step with
  | 0 =>
    let pins := _VPA pins
    let pins := _SA pins c.PC
    let c := { c with PC := (c.PC + 1) % 65536 }
    some (c, pins)
  | 1 =>
    let pins := _VDA pins
    let pins := _SA pins (_GD pins)
    some (c, pins)
  | 2 =>
    let c := set_A c (_GD pins)
    let r := if _a8 c then (let c := _NZ c (_A c); let pins := _FETCH c pins; (c, pins)) else (let pins := _VDA pins; let pins := _SAL pins ((_GAL pins + 1) % 0x100000000); (c, pins))
    let c := r.1
    let pins := r.2
    some (c, pins)
  | 3 =>
    let c := set_B c (_GD pins)
    let c := _NZ16 c (_C c)
    let pins := _FETCH c pins
    some (c, pins)
  | _ => none

/-- Decoder cases `(0xA6<<3)|0..7`: LDX d (lines 2207-2214). -/
def op_A6 (step : Nat) (c : w65816_t) (pins : Nat) : Option (w65816_t × Nat) :=
  match step with
  | 0 =>
    let pins := _VPA pins
    let pins := _SA pins c.PC
    let c := { c with PC := (c.PC + 1) % 65536 }
    some (c, pins)
  | 1 =>
    let pins := _VDA pins
    let pins := _SA pins (_GD pins)
    some (c, pins)
  | 2 =>
    let c := set_X c (_GD pins)
    let r := if _i8 c then (let c := _NZ c (_X c); let pins := _FETCH c pins; (c, pins)) else (let pins := _VDA pins; let pins := _SAL pins ((_GAL pins + 1) % 0x100000000); (c, pins))
    let c := r.1
    let pins := r.2
    some (c, pins)
  | 3 =>
    let c := set_XH c (_GD pins)
    let c := _NZ16 c (_X c)
    let pins := _FETCH c pins
    some (c, pins)
  | _ => none

/-- Decoder cases `(0xA7<<3)|0..7`: LDA [d] (lines 2216-2223). -/
def op_A7 (step : Nat) (c : w65816_t) (pins : Nat) : Option (w65816_t × Nat) :=
  match step with
  | 0 => some (c, pins)
  | 1 =>
    let c := set_A c (_GD pins)
    let r := if _a8 c then (let c := _NZ c (_A c); let pins := _FETCH c pins; (c, pins)) else (let pins := _VDA pins; let pins := _SAL pins ((_GAL pins + 1) % 0x100000000); (c, pins))
    let c := r.1
    let pins := r.2
    some (c, pins)
  | 2 =>
    let c := set_B c (_GD pins)
    let c := _NZ16 c (_C c)
    let pins := _FETCH c pins
    some (c, pins)
  | _ => none

/-- Decoder cases `(0xA8<<3)|0..7`: TAY i (lines 2225-2232). -/
def op_A8 (step : Nat) (c : w65816_t) (pins : Nat) : Option (w65816_t × Nat) :=
  match step with
  | 0 =>
    let pins := _SA pins c.PC
    some (c, pins)
  | 1 =>
    let c := set_Y c (_A c)
    let c := _NZ c (_Y c)
    let pins := _FETCH c pins
    some (c, pins)
  | _ => none

/-- Decoder cases `(0xA9<<3)|0..7`: LDA # (lines 2234-2241). -/
def op_A9 (step : Nat) (c : w65816_t) (pins : Nat) : Option (w65816_t × Nat) :=
  match step with
  | 0 =>
    let pins := _VPA pins
    let pins := _SA pins c.PC
    let c := { c with PC := (c.PC + 1) % 65536 }
    some (c, pins)
  | 1 =>
    let c := set_A c (_GD pins)
    let r := if _a8 c then (let c := _NZ c (_A c); let pins := _FETCH c pins; (c, pins)) else (let pins := _VPA pins; let pins := _SA pins c.PC; let c := { c with PC := (c.PC + 1) % 65536 }; (c, pins))
    let c := r.1
    let pins := r.2
    some (c, pins)
  | 2 =>
    let c := set_B c (_GD pins)
    let c := _NZ16 c (_C c)
    let pins := _FETCH c pins
    some (c, pins)
  | _ => none

/-- Decoder cases `(0xAA<<3)|0..7`: TAX i (lines 2243-2250). -/
def op_AA (step : Nat) (c : w65816_t) (pins : Nat) : Option (w65816_t × Nat) :=
  match step with
  | 0 =>
    let pins := _SA pins c.PC
    some (c, pins)
  | 1 =>
    let c := set_X c (_A c)
    let c := _NZ c (_X c)
    let pins := _FETCH c pins
    some (c, pins)
  | _ => none

/-- Decoder cases `(0xAB<<3)|0..7`: PLB s (lines 2252-2259). -/
def op_AB (step : Nat) (c : w65816_t) (pins : Nat) : Option (w65816_t × Nat) :=
  match step with
  | 0 =>
    let pins := _SA pins c.PC
    some (c, pins)
  | 1 =>
    let pins := _SA pins c.PC
    some (c, pins)
  | 2 =>
    let pins := _VDA pins
    let c := set_S c (_S c + 1)
    let pins := _SA pins (0x0100 ||| _S c)
    some (c, pins)
  | 3 =>
    let c := { c with DBR := _GD pins }
    let c := _NZ c c.DBR
    let pins := _FETCH c pins
    some (c, pins)
  | _ => none

/-- Decoder cases `(0xAC<<3)|0..7`: LDY a (lines 2261-2268). -/
def op_AC (step : Nat) (c : w65816_t) (pins : Nat) : Option (w65816_t × Nat) :=
  match step with
  | 0 =>
    let pins := _VPA pins
    let pins := _SA pins c.PC
    let c := { c with PC := (c.PC + 1) % 65536 }
    some (c, pins)
  | 1 =>
    let pins := _VPA pins
    let pins := _SA pins c.PC
    let c := { c with PC := (c.PC + 1) % 65536 }
    let c := { c with AD := _GD pins }
    some (c, pins)
  | 2 =>
    let pins := _SA pins ((_GD pins <<< 8) ||| c.AD)
    some (c, pins)
  | 3 =>
    let c := set_Y c (_GD pins)
    let r := if _i8 c then (let c := _NZ c (_Y c); let pins := _FETCH c pins; (c, pins)) else (let pins := _VDA pins; let pins := _SAL pins ((_GAL pins + 1) % 0x100000000); (c, pins))
    let c := r.1
    let pins := r.2
    some (c, pins)
  | 4 =>
    let c := set_YH c (_GD pins)
    let c := _NZ16 c (_Y c)
    let pins := _FETCH c pins
    some (c, pins)
  | _ => none

/-- Decoder cases `(0xAD<<3)|0..7`: LDA a (lines 2270-2277). -/
def op_AD (step : Nat) (c : w65816_t) (pins : Nat) : Option (w65816_t × Nat) :=
  match step with
  | 0 =>
    let pins := _VPA pins
    let pins := _SA pins c.PC
    let c := { c with PC := (c.PC + 1) % 65536 }
    some (c, pins)
  | 1 =>
    let pins := _VPA pins
    let pins := _SA pins c.PC
    let c := { c with PC := (c.PC + 1) % 65536 }
    let c := { c with AD := _GD pins }
    some (c, pins)
  | 2 =>
    let pins := _SA pins ((_GD pins <<< 8) ||| c.AD)
    some (c, pins)
  | 3 =>
    let c := set_A c (_GD pins)
    let r := if _a8 c then (let c := _NZ c (_A c); let pins := _FETCH c pins; (c, pins)) else (let pins := _VDA pins; let pins := _SAL pins ((_GAL pins + 1) % 0x100000000); (c, pins))
    let c := r.1
    let pins := r.2
    some (c, pins)
  | 4 =>
    let c := set_B c (_GD pins)
    let c := _NZ16 c (_C c)
    let pins := _FETCH c pins
    some (c, pins)
  | _ => none

/-- Decoder cases `(0xAE<<3)|0..7`: LDX a (lines 2279-2286). -/
def op_AE (step : Nat) (c : w65816_t) (pins : Nat) : Option (w65816_t × Nat) :=
  match step with
  | 0 =>
    let pins := _VPA pins
    let pins := _SA pins c.PC
    let c := { c with PC := (c.PC + 1) % 65536 }
    some (c, pins)
  | 1 =>
    let pins := _VPA pins
    let pins := _SA pins c.PC
    let c := { c with PC := (c.PC + 1) % 65536 }
    let c := { c with AD := _GD pins }
    some (c, pins)
  | 2 =>
    let pins := _SA pins ((_GD pins <<< 8) ||| c.AD)
    some (c, pins)
  | 3 =>
    let c := set_X c (_GD pins)
    let r := if _i8 c then (let c := _NZ c (_X c); let pins := _FETCH c pins; (c, pins)) else (let pins := _VDA pins; let pins := _SAL pins ((_GAL pins + 1) % 0x100000000); (c, pins))
    let c := r.1
    let pins := r.2
    some (c, pins)
  | 4 =>
    let c := set_XH c (_GD pins)
    let c := _NZ16 c (_X c)
    let pins := _FETCH c pins
    some (c, pins)
  | _ => none

/-- Decoder cases `(0xAF<<3)|0..7`: LDA al (lines 2288-2295). -/
def op_AF (step : Nat) (c : w65816_t) (pins : Nat) : Option (w65816_t × Nat) :=
  match step with
  | 0 => some (c, pins)
  | 1 =>
    let c := set_A c (_GD pins)
    let r := if _a8 c then (let c := _NZ c (_A c); let pins := _FETCH c pins; (c, pins)) else (let pins := _VDA pins; let pins := _SAL pins ((_GAL pins + 1) % 0x100000000); (c, pins))
    let c := r.1
    let pins := r.2
    some (c, pins)
  | 2 =>
    let c := set_B c (_GD pins)
    let c := _NZ16 c (_C c)
    let pins := _FETCH c pins
    some (c, pins)
  | _ => none

/-- Decoder cases `(0xB0<<3)|0..7`: BCS r (lines 2297-2304). -/
def op_B0 (step : Nat) (c : w65816_t) (pins : Nat) : Option (w65816_t × Nat) :=
  match step with
  | 0 =>
    let pins := _VPA pins
    let pins := _SA pins c.PC
    let c := { c with PC := (c.PC + 1) % 65536 }
    some (c, pins)
  | 1 =>
    let pins := _SA pins c.PC
    let c := { c with AD := (c.PC + SEXT8 (_GD pins)) % 65536 }
    let pins := if (c.P &&& 0x1) ≠ 0x1 then (let pins := _FETCH c pins; pins) else pins
    some (c, pins)
  | 2 =>
    let pins := _SA pins ((c.PC &&& 0xFF00) ||| (c.AD &&& 0x00FF))
    let r := if (c.AD &&& 0xFF00) = (c.PC &&& 0xFF00) then (let c := { c with PC := c.AD }; let c := { c with irq_pip := c.irq_pip >>> 1 }; let c := { c with nmi_pip := c.nmi_pip >>> 1 }; let pins := _FETCH c pins; (c, pins)) else (c, pins)
    let c := r.1
    let pins := r.2
    some (c, pins)
  | 3 =>
    let c := { c with PC := c.AD }
    let pins := _FETCH c pins
    some (c, pins)
  | _ => none

/-- Decoder cases `(0xB1<<3)|0..7`: LDA (d),y (lines 2306-2313). -/
def op_B1 (step : Nat) (c : w65816_t) (pins : Nat) : Option (w65816_t × Nat) :=
  match step with
  | 0 =>
    let pins := _VPA pins
    let pins := _SA pins c.PC
    let c := { c with PC := (c.PC + 1) % 65536 }
    some (c, pins)
  | 1 =>
    let pins := _VDA pins
    let c := { c with AD := _GD pins }
    let pins := _SA pins c.AD
    some (c, pins)
  | 2 =>
    let pins := _VDA pins
    let pins := _SA pins ((c.AD + 1) &&& 0xFF)
    let c := { c with AD := _GD pins }
    some (c, pins)
  | 3 =>
    let c := { c with AD := (c.AD ||| (_GD pins <<< 8)) % 65536 }
    let pins := _SA pins ((c.AD &&& 0xFF00) ||| ((c.AD + _Y c) &&& 0xFF))
    let c := { c with IR := (c.IR + (NOT32 (SUB32 (c.AD >>> 8) ((c.AD + _Y c) >>> 8)) &&& 1)) % 65536 }
    some (c, pins)
  | 4 =>
    let pins := _VDA pins
    let pins := _SA pins (c.AD + _Y c)
    some (c, pins)
  | 5 =>
    let c := set_A c (_GD pins)
    let r := if _a8 c then (let c := _NZ c (_A c); let pins := _FETCH c pins; (c, pins)) else (let pins := _VDA pins; let pins := _SAL pins ((_GAL pins + 1) % 0x100000000); (c, pins))
    let c := r.1
    let pins := r.2
    some (c, pins)
  | 6 =>
    let c := set_B c (_GD pins)
    let c := _NZ16 c (_C c)
    let pins := _FETCH c pins
    some (c, pins)
  | _ => none

/-- Decoder cases `(0xB2<<3)|0..7`: LDA (d) (lines 2315-2322). -/
def op_B2 (step : Nat) (c : w65816_t) (pins : Nat) : Option (w65816_t × Nat) :=
  match step with
  | 0 => some (c, pins)
  | 1 =>
    let c := set_A c (_GD pins)
    let r := if _a8 c then (let c := _NZ c (_A c); let pins := _FETCH c pins; (c, pins)) else (let pins := _VDA pins; let pins := _SAL pins ((_GAL pins + 1) % 0x100000000); (c, pins))
    let c := r.1
    let pins := r.2
    some (c, pins)
  | 2 =>
    let c := set_B c (_GD pins)
    let c := _NZ16 c (_C c)
    let pins := _FETCH c pins
    some (c, pins)
  | _ => none

/-- Decoder cases `(0xB3<<3)|0..7`: LDA (d,s),y (lines 2324-2331). -/
def op_B3 (step : Nat) (c : w65816_t) (pins : Nat) : Option (w65816_t × Nat) :=
  match step with
  | 0 => some (c, pins)
  | 1 =>
    let c := set_A c (_GD pins)
    let r := if _a8 c then (let c := _NZ c (_A c); let pins := _FETCH c pins; (c, pins)) else (let pins := _VDA pins; let pins := _SAL pins ((_GAL pins + 1) % 0x100000000); (c, pins))
    let c := r.1
    let pins := r.2
    some (c, pins)
  | 2 =>
    let c := set_B c (_GD pins)
    let c := _NZ16 c (_C c)
    let pins := _FETCH c pins
    some (c, pins)
  | _ => none

/-- Decoder cases `(0xB4<<3)|0..7`: LDY d,x (lines 2333-2340). -/
def op_B4 (step : Nat) (c : w65816_t) (pins : Nat) : Option (w65816_t × Nat) :=
  match step with
  | 0 =>
    let pins := _VPA pins
    let pins := _SA pins c.PC
    let c := { c with PC := (c.PC + 1) % 65536 }
    some (c, pins)
  | 1 =>
    let c := { c with AD := _GD pins }
    let pins := _SA pins c.AD
    some (c, pins)
  | 2 =>
    let pins := _VDA pins
    let pins := if _E c then (let pins := _SA pins ((c.AD + _X c) &&& 0x00FF); pins) else (let pins := _SA pins (c.AD + _X c); pins)
    some (c, pins)
  | 3 =>
    let c := set_Y c (_GD pins)
    let r := if _i8 c then (let c := _NZ c (_Y c); let pins := _FETCH c pins; (c, pins)) else (let pins := _VDA pins; let pins := _SAL pins ((_GAL pins + 1) % 0x100000000); (c, pins))
    let c := r.1
    let pins := r.2
    some (c, pins)
  | 4 =>
    let c := set_YH c (_GD pins)
    let c := _NZ16 c (_Y c)
    let pins := _FETCH c pins
    some (c, pins)
  | _ => none

/-- Decoder cases `(0xB5<<3)|0..7`: LDA d,x (lines 2342-2349). -/
def op_B5 (step : Nat) (c : w65816_t) (pins : Nat) : Option (w65816_t × Nat) :=
  match step with
  | 0 =>
    let pins := _VPA pins
    let pins := _SA pins c.PC
    let c := { c with PC := (c.PC + 1) % 65536 }
    some (c, pins)
  | 1 =>
    let c := { c with AD := _GD pins }
    let pins := _SA pins c.AD
    some (c, pins)
  | 2 =>
    let pins := _VDA pins
    let pins := if _E c then (let pins := _SA pins ((c.AD + _X c) &&& 0x00FF); pins) else (let pins := _SA pins (c.AD + _X c); pins)
    some (c, pins)
  | 3 =>
    let c := set_A c (_GD pins)
    let r := if _a8 c then (let c := _NZ c (_A c); let pins := _FETCH c pins; (c, pins)) else (let pins := _VDA pins; let pins := _SAL pins ((_GAL pins + 1) % 0x100000000); (c, pins))
    let c := r.1
    let pins := r.2
    some (c, pins)
  | 4 =>
    let c := set_B c (_GD pins)
    let c := _NZ16 c (_C c)
    let pins := _FETCH c pins
    some (c, pins)
  | _ => none

/-- Decoder cases `(0xB6<<3)|0..7`: LDX d,y (lines 2351-2358). -/
def op_B6 (step : Nat) (c : w65816_t) (pins : Nat) : Option (w65816_t × Nat) :=
  match step with
  | 0 =>
    let pins := _VPA pins
    let pins := _SA pins c.PC
    let c := { c with PC := (c.PC + 1) % 65536 }
    some (c, pins)
  | 1 =>
    let c := { c with AD := _GD pins }
    let pins := _SA pins c.AD
    some (c, pins)
  | 2 =>
    let pins := _VDA pins
    let pins := if _E c then (let pins := _SA pins ((c.AD + _Y c) &&& 0x00FF); pins) else (let pins := _SA pins (c.AD + _Y c); pins)
    some (c, pins)
  | 3 =>
    let c := set_X c (_GD pins)
    let r := if _i8 c then (let c := _NZ c (_X c); let pins := _FETCH c pins; (c, pins)) else (let pins := _VDA pins; let pins := _SAL pins ((_GAL pins + 1) % 0x100000000); (c, pins))
    let c := r.1
    let pins := r.2
    some (c, pins)
  | 4 =>
    let c := set_XH c (_GD pins)
    let c := _NZ16 c (_X c)
    let pins := _FETCH c pins
    some (c, pins)
  | _ => none

/-- Decoder cases `(0xB7<<3)|0..7`: LDA [d],y (lines 2360-2367). -/
def op_B7 (step : Nat) (c : w65816_t) (pins : Nat) : Option (w65816_t × Nat) :=
  match step with
  | 0 => some (c, pins)
  | 1 =>
    let c := set_A c (_GD pins)
    let r := if _a8 c then (let c := _NZ c (_A c); let pins := _FETCH c pins; (c, pins)) else (let pins := _VDA pins; let pins := _SAL pins ((_GAL pins + 1) % 0x100000000); (c, pins))
    let c := r.1
    let pins := r.2
    some (c, pins)
  | 2 =>
    let c := set_B c (_GD pins)
    let c := _NZ16 c (_C c)
    let pins := _FETCH c pins
    some (c, pins)
  | _ => none

/-- Decoder cases `(0xB8<<3)|0..7`: CLV i (lines 2369-2376). -/
def op_B8 (step : Nat) (c : w65816_t) (pins : Nat) : Option (w65816_t × Nat) :=
  match step with
  | 0 =>
    let pins := _SA pins c.PC
    some (c, pins)
  | 1 =>
    let c := { c with P := (c.P &&& NOT32 0x40) % 256 }
    let pins := _FETCH c pins
    some (c, pins)
  | _ => none

/-- Decoder cases `(0xB9<<3)|0..7`: LDA a,y (lines 2378-2385). -/
def op_B9 (step : Nat) (c : w65816_t) (pins : Nat) : Option (w65816_t × Nat) :=
  match step with
  | 0 =>
    let pins := _VPA pins
    let pins := _SA pins c.PC
    let c := { c with PC := (c.PC + 1) % 65536 }
    some (c, pins)
  | 1 =>
    let pins := _VPA pins
    let pins := _SA pins c.PC
    let c := { c with PC := (c.PC + 1) % 65536 }
    let c := { c with AD := _GD pins }
    some (c, pins)
  | 2 =>
    let c := { c with AD := (c.AD ||| (_GD pins <<< 8)) % 65536 }
    let pins := _SA pins ((c.AD &&& 0xFF00) ||| ((c.AD + _Y c) &&& 0xFF))
    let c := { c with IR := (c.IR + (NOT32 (SUB32 (c.AD >>> 8) ((c.AD + _Y c) >>> 8)) &&& 1)) % 65536 }
    some (c, pins)
  | 3 =>
    let pins := _VDA pins
    let pins := _SA pins (c.AD + _Y c)
    some (c, pins)
  | 4 =>
    let c := set_A c (_GD pins)
    let r := if _a8 c then (let c := _NZ c (_A c); let pins := _FETCH c pins; (c, pins)) else (let pins := _VDA pins; let pins := _SAL pins ((_GAL pins + 1) % 0x100000000); (c, pins))
    let c := r.1
    let pins := r.2
    some (c, pins)
  | 5 =>
    let c := set_B c (_GD pins)
    let c := _NZ16 c (_C c)
    let pins := _FETCH c pins
    some (c, pins)
  | _ => none

/-- Decoder cases `(0xBA<<3)|0..7`: TSX i (lines 2387-2394). -/
def op_BA (step : Nat) (c : w65816_t) (pins : Nat) : Option (w65816_t × Nat) :=
  match step with
  | 0 =>
    let pins := _SA pins c.PC
    some (c, pins)
  | 1 =>
    let c := set_X c (_S c)
    let c := _NZ c (_X c)
    let pins := _FETCH c pins
    some (c, pins)
  | _ => none

/-- Decoder cases `(0xBB<<3)|0..7`: TYX i (lines 2396-2403). -/
def op_BB (step : Nat) (c : w65816_t) (pins : Nat) : Option (w65816_t × Nat) :=
  match step with
  | 0 =>
    let pins := _SA pins c.PC
    some (c, pins)
  | 1 =>
    let c := set_X c (_Y c)
    let c := _NZ c (_X c)
    let pins := _FETCH c pins
    some (c, pins)
  | _ => none

/-- Decoder cases `(0xBC<<3)|0..7`: LDY a,x (lines 2405-2412). -/
def op_BC (step : Nat) (c : w65816_t) (pins : Nat) : Option (w65816_t × Nat) :=
  match step with
  | 0 =>
    let pins := _VPA pins
    let pins := _SA pins c.PC
    let c := { c with PC := (c.PC + 1) % 65536 }
    some (c, pins)
  | 1 =>
    let pins := _VPA pins
    let pins := _SA pins c.PC
    let c := { c with PC := (c.PC + 1) % 65536 }
    let c := { c with AD := _GD pins }
    some (c, pins)
  | 2 =>
    let c := { c with AD := (c.AD ||| (_GD pins <<< 8)) % 65536 }
    let pins := _SA pins ((c.AD &&& 0xFF00) ||| ((c.AD + _X c) &&& 0xFF))
    let c := { c with IR := (c.IR + (NOT32 (SUB32 (c.AD >>> 8) ((c.AD + _X c) >>> 8)) &&& 1)) % 65536 }
    some (c, pins)
  | 3 =>
    let pins := _VDA pins
    let pins := _SA pins (c.AD + _X c)
    some (c, pins)
  | 4 =>
    let c := set_Y c (_GD pins)
    let r := if _i8 c then (let c := _NZ c (_Y c); let pins := _FETCH c pins; (c, pins)) else (let pins := _VDA pins; let pins := _SAL pins ((_GAL pins + 1) % 0x100000000); (c, pins))
    let c := r.1
    let pins := r.2
    some (c, pins)
  | 5 =>
    let c := set_YH c (_GD pins)
    let c := _NZ16 c (_Y c)
    let pins := _FETCH c pins
    some (c, pins)
  | _ => none

/-- Decoder cases `(0xBD<<3)|0..7`: LDA a,x (lines 2414-2421). -/
def op_BD (step : Nat) (c : w65816_t) (pins : Nat) : Option (w65816_t × Nat) :=
  match step with
  | 0 =>
    let pins := _VPA pins
    let pins := _SA pins c.PC
    let c := { c with PC := (c.PC + 1) % 65536 }
    some (c, pins)
  | 1 =>
    let pins := _VPA pins
    let pins := _SA pins c.PC
    let c := { c with PC := (c.PC + 1) % 65536 }
    let c := { c with AD := _GD pins }
    some (c, pins)
  | 2 =>
    let c := { c with AD := (c.AD ||| (_GD pins <<< 8)) % 65536 }
    let pins := _SA pins ((c.AD &&& 0xFF00) ||| ((c.AD + _X c) &&& 0xFF))
    let c := { c with IR := (c.IR + (NOT32 (SUB32 (c.AD >>> 8) ((c.AD + _X c) >>> 8)) &&& 1)) % 65536 }
    some (c, pins)
  | 3 =>
    let pins := _VDA pins
    let pins := _SA pins (c.AD + _X c)
    some (c, pins)
  | 4 =>
    let c := set_A c (_GD pins)
    let r := if _a8 c then (let c := _NZ c (_A c); let pins := _FETCH c pins; (c, pins)) else (let pins := _VDA pins; let pins := _SAL pins ((_GAL pins + 1) % 0x100000000); (c, pins))
    let c := r.1
    let pins := r.2
    some (c, pins)
  | 5 =>
    let c := set_B c (_GD pins)
    let c := _NZ16 c (_C c)
    let pins := _FETCH c pins
    some (c, pins)
  | _ => none

/-- Decoder cases `(0xBE<<3)|0..7`: LDX a,y (lines 2423-2430). -/
def op_BE (step : Nat) (c : w65816_t) (pins : Nat) : Option (w65816_t × Nat) :=
  match step with
  | 0 =>
    let pins := _VPA pins
    let pins := _SA pins c.PC
    let c := { c with PC := (c.PC + 1) % 65536 }
    some (c, pins)
  | 1 =>
    let pins := _VPA pins
    let pins := _SA pins c.PC
    let c := { c with PC := (c.PC + 1) % 65536 }
    let c := { c with AD := _GD pins }
    some (c, pins)
  | 2 =>
    let c := { c with AD := (c.AD ||| (_GD pins <<< 8)) % 65536 }
    let pins := _SA pins ((c.AD &&& 0xFF00) ||| ((c.AD + _Y c) &&& 0xFF))
    let c := { c with IR := (c.IR + (NOT32 (SUB32 (c.AD >>> 8) ((c.AD + _Y c) >>> 8)) &&& 1)) % 65536 }
    some (c, pins)
  | 3 =>
    let pins := _VDA pins
    let pins := _SA pins (c.AD + _Y c)
    some (c, pins)
  | 4 =>
    let c := set_X c (_GD pins)
    let r := if _i8 c then (let c := _NZ c (_X c); let pins := _FETCH c pins; (c, pins)) else (let pins := _VDA pins; let pins := _SAL pins ((_GAL pins + 1) % 0x100000000); (c, pins))
    let c := r.1
    let pins := r.2
    some (c, pins)
  | 5 =>
    let c := set_XH c (_GD pins)
    let c := _NZ16 c (_X c)
    let pins := _FETCH c pins
    some (c, pins)
  | _ => none

/-- Decoder cases `(0xBF<<3)|0..7`: LDA al,x (lines 2432-2439). -/
def op_BF (step : Nat) (c : w65816_t) (pins : Nat) : Option (w65816_t × Nat) :=
  match step with
  | 0 => some (c, pins)
  | 1 =>
    let c := set_A c (_GD pins)
    let r := if _a8 c then (let c := _NZ c (_A c); let pins := _FETCH c pins; (c, pins)) else (let pins := _VDA pins; let pins := _SAL pins ((_GAL pins + 1) % 0x100000000); (c, pins))
    let c := r.1
    let pins := r.2
    some (c, pins)
  | 2 =>
    let c := set_B c (_GD pins)
    let c := _NZ16 c (_C c)
    let pins := _FETCH c pins
    some (c, pins)
  | _ => none

/-- Decoder cases `(0xC0<<3)|0..7`: CPY # (lines 2441-2448). -/
def op_C0 (step : Nat) (c : w65816_t) (pins : Nat) : Option (w65816_t × Nat) :=
  match step with
  | 0 =>
    let pins := _VPA pins
    let pins := _SA pins c.PC
    let c := { c with PC := (c.PC + 1) % 65536 }
    some (c, pins)
  | 1 =>
    let c := _w65816_cmp c (_Y c) (_GD pins)
    let pins := _FETCH c pins
    some (c, pins)
  | _ => none

/-- Decoder cases `(0xC1<<3)|0..7`: CMP (d,x) (lines 2450-2457). -/
def op_C1 (step : Nat) (c : w65816_t) (pins : Nat) : Option (w65816_t × Nat) :=
  match step with
  | 0 =>
    let pins := _VPA pins
    let pins := _SA pins c.PC
    let c := { c with PC := (c.PC + 1) % 65536 }
    some (c, pins)
  | 1 =>
    let c := { c with AD := _GD pins }
    let pins := _SA pins c.AD
    some (c, pins)
  | 2 =>
    let pins := _VDA pins
    let c := { c with AD := (c.AD + _X c) &&& 0xFF }
    let pins := _SA pins c.AD
    some (c, pins)
  | 3 =>
    let pins := _VDA pins
    let pins := _SA pins ((c.AD + 1) &&& 0xFF)
    let c := { c with AD := _GD pins }
    some (c, pins)
  | 4 =>
    let pins := _VDA pins
    let pins := _SA pins ((_GD pins <<< 8) ||| c.AD)
    some (c, pins)
  | 5 =>
    let c := _w65816_cmp c (_A c) (_GD pins)
    let pins := _FETCH c pins
    some (c, pins)
  | _ => none

/-- Decoder cases `(0xC2<<3)|0..7`: REP # (lines 2459-2466). -/
def op_C2 (step : Nat) (c : w65816_t) (pins : Nat) : Option (w65816_t × Nat) :=
  match step with
  | 0 =>
    let pins := _VPA pins
    let pins := _SA pins c.PC
    let c := { c with PC := (c.PC + 1) % 65536 }
    some (c, pins)
  | 1 =>
    let c := { c with P := (c.P &&& NOT32 (_GD pins)) % 256 }
    let pins := _SA pins c.PC
    some (c, pins)
  | 2 =>
    let pins := _FETCH c pins
    some (c, pins)
  | _ => none

/-- Decoder cases `(0xC3<<3)|0..7`: CMP d,s (lines 2468-2475). -/
def op_C3 (step : Nat) (c : w65816_t) (pins : Nat) : Option (w65816_t × Nat) :=
  match step with
  | 0 => some (c, pins)
  | 1 =>
    let c := _w65816_cmp c (_A c) (_GD pins)
    some (c, pins)
  | 2 =>
    let pins := _FETCH c pins
    some (c, pins)
  | _ => none

/-- Decoder cases `(0xC4<<3)|0..7`: CPY d (lines 2477-2484). -/
def op_C4 (step : Nat) (c : w65816_t) (pins : Nat) : Option (w65816_t × Nat) :=
  match step with
  | 0 =>
    let pins := _VPA pins
    let pins := _SA pins c.PC
    let c := { c with PC := (c.PC + 1) % 65536 }
    some (c, pins)
  | 1 =>
    let pins := _VDA pins
    let pins := _SA pins (_GD pins)
    some (c, pins)
  | 2 =>
    let c := _w65816_cmp c (_Y c) (_GD pins)
    let pins := _FETCH c pins
    some (c, pins)
  | _ => none

/-- Decoder cases `(0xC5<<3)|0..7`: CMP d (lines 2486-2493). -/
def op_C5 (step : Nat) (c : w65816_t) (pins : Nat) : Option (w65816_t × Nat) :=
  match step with
  | 0 =>
    let pins := _VPA pins
    let pins := _SA pins c.PC
    let c := { c with PC := (c.PC + 1) % 65536 }
    some (c, pins)
  | 1 =>
    let pins := _VDA pins
    let pins := _SA pins (_GD pins)
    some (c, pins)
  | 2 =>
    let c := _w65816_cmp c (_A c) (_GD pins)
    let pins := _FETCH c pins
    some (c, pins)
  | _ => none

/-- Decoder cases `(0xC6<<3)|0..7`: DEC d (lines 2495-2502). -/
def op_C6 (step : Nat) (c : w65816_t) (pins : Nat) : Option (w65816_t × Nat) :=
  match step with
  | 0 =>
    let pins := _VPA pins
    let pins := _SA pins c.PC
    let c := { c with PC := (c.PC + 1) % 65536 }
    some (c, pins)
  | 1 =>
    let pins := _VDA pins
    let pins := _SA pins (_GD pins)
    some (c, pins)
  | 2 =>
    let c := { c with AD := _GD pins }
    let pins := if _E c then (let pins := _WR pins; pins) else pins
    some (c, pins)
  | 3 =>
    let pins := _VDA pins
    let c := { c with AD := (c.AD + 65535) % 65536 }
    let c := _NZ c c.AD
    let pins := _SD pins c.AD
    let pins := _WR pins
    some (c, pins)
  | 4 =>
    let pins := _FETCH c pins
    some (c, pins)
  | _ => none

/-- Decoder cases `(0xC7<<3)|0..7`: CMP [d] (lines 2504-2511). -/
def op_C7 (step : Nat) (c : w65816_t) (pins : Nat) : Option (w65816_t × Nat) :=
  match step with
  | 0 => some (c, pins)
  | 1 =>
    let c := _w65816_cmp c (_A c) (_GD pins)
    some (c, pins)
  | 2 =>
    let pins := _FETCH c pins
    some (c, pins)
  | _ => none

/-- Decoder cases `(0xC8<<3)|0..7`: INY i (lines 2513-2520). -/
def op_C8 (step : Nat) (c : w65816_t) (pins : Nat) : Option (w65816_t × Nat) :=
  match step with
  | 0 =>
    let pins := _SA pins c.PC
    some (c, pins)
  | 1 =>
    let c := set_Y c (_Y c + 1)
    let c := _NZ c (_Y c)
    let pins := _FETCH c pins
    some (c, pins)
  | _ => none

/-- Decoder cases `(0xC9<<3)|0..7`: CMP # (lines 2522-2529). -/
def op_C9 (step : Nat) (c : w65816_t) (pins : Nat) : Option (w65816_t × Nat) :=
  match step with
  | 0 =>
    let pins := _VPA pins
    let pins := _SA pins c.PC
    let c := { c with PC := (c.PC + 1) % 65536 }
    some (c, pins)
  | 1 =>
    let c := _w65816_cmp c (_A c) (_GD pins)
    let pins := _FETCH c pins
    some (c, pins)
  | _ => none

/-- Decoder cases `(0xCA<<3)|0..7`: DEX i (lines 2531-2538). -/
def op_CA (step : Nat) (c : w65816_t) (pins : Nat) : Option (w65816_t × Nat) :=
  match step with
  | 0 =>
    let pins := _SA pins c.PC
    some (c, pins)
  | 1 =>
    let c := set_X c (_X c + 255)
    let c := _NZ c (_X c)
    let pins := _FETCH c pins
    some (c, pins)
  | _ => none

/-- Decoder cases `(0xCB<<3)|0..7`: WAI i (unimpl) (lines 2540-2547). -/
def op_CB (step : Nat) (c : w65816_t) (pins : Nat) : Option (w65816_t × Nat) :=
  match step with
  | 0 =>
    let pins := _SA pins c.PC
    some (c, pins)
  | 1 =>
    let pins := _FETCH c pins
    some (c, pins)
  | _ => none

/-- Decoder cases `(0xCC<<3)|0..7`: CPY a (lines 2549-2556). -/
def op_CC (step : Nat) (c : w65816_t) (pins : Nat) : Option (w65816_t × Nat) :=
  match step with
  | 0 =>
    let pins := _VPA pins
    let pins := _SA pins c.PC
    let c := { c with PC := (c.PC + 1) % 65536 }
    some (c, pins)
  | 1 =>
    let pins := _VPA pins
    let pins := _SA pins c.PC
    let c := { c with PC := (c.PC + 1) % 65536 }
    let c := { c with AD := _GD pins }
    some (c, pins)
  | 2 =>
    let pins := _SA pins ((_GD pins <<< 8) ||| c.AD)
    some (c, pins)
  | 3 =>
    let c := _w65816_cmp c (_Y c) (_GD pins)
    let pins := _FETCH c pins
    some (c, pins)
  | _ => none

/-- Decoder cases `(0xCD<<3)|0..7`: CMP a (lines 2558-2565). -/
def op_CD (step : Nat) (c : w65816_t) (pins : Nat) : Option (w65816_t × Nat) :=
  match step with
  | 0 =>
    let pins := _VPA pins
    let pins := _SA pins c.PC
    let c := { c with PC := (c.PC + 1) % 65536 }
    some (c, pins)
  | 1 =>
    let pins := _VPA pins
    let pins := _SA pins c.PC
    let c := { c with PC := (c.PC + 1) % 65536 }
    let c := { c with AD := _GD pins }
    some (c, pins)
  | 2 =>
    let pins := _SA pins ((_GD pins <<< 8) ||| c.AD)
    some (c, pins)
  | 3 =>
    let c := _w65816_cmp c (_A c) (_GD pins)
    let pins := _FETCH c pins
    some (c, pins)
  | _ => none

/-- Decoder cases `(0xCE<<3)|0..7`: DEC a (lines 2567-2574). -/
def op_CE (step : Nat) (c : w65816_t) (pins : Nat) : Option (w65816_t × Nat) :=
  match step with
  | 0 =>
    let pins := _VPA pins
    let pins := _SA pins c.PC
    let c := { c with PC := (c.PC + 1) % 65536 }
    some (c, pins)
  | 1 =>
    let pins := _VPA pins
    let pins := _SA pins c.PC
    let c := { c with PC := (c.PC + 1) % 65536 }
    let c := { c with AD := _GD pins }
    some (c, pins)
  | 2 =>
    let pins := _SA pins ((_GD pins <<< 8) ||| c.AD)
    some (c, pins)
  | 3 =>
    let c := { c with AD := _GD pins }
    let pins := if _E c then (let pins := _WR pins; pins) else pins
    some (c, pins)
  | 4 =>
    let pins := _VDA pins
    let c := { c with AD := (c.AD + 65535) % 65536 }
    let c := _NZ c c.AD
    let pins := _SD pins c.AD
    let pins := _WR pins
    some (c, pins)
  | 5 =>
    let pins := _FETCH c pins
    some (c, pins)
  | _ => none

/-- Decoder cases `(0xCF<<3)|0..7`: CMP al (lines 2576-2583). -/
def op_CF (step : Nat) (c : w65816_t) (pins : Nat) : Option (w65816_t × Nat) :=
  match step with
  | 0 => some (c, pins)
  | 1 =>
    let c := _w65816_cmp c (_A c) (_GD pins)
    some (c, pins)
  | 2 =>
    let pins := _FETCH c pins
    some (c, pins)
  | _ => none

/-- Decoder cases `(0xD0<<3)|0..7`: BNE r (lines 2585-2592). -/
def op_D0 (step : Nat) (c : w65816_t) (pins : Nat) : Option (w65816_t × Nat) :=
  match step with
  | 0 =>
    let pins := _VPA pins
    let pins := _SA pins c.PC
    let c := { c with PC := (c.PC + 1) % 65536 }
    some (c, pins)
  | 1 =>
    let pins := _SA pins c.PC
    let c := { c with AD := (c.PC + SEXT8 (_GD pins)) % 65536 }
    let pins := if (c.P &&& 0x2) ≠ 0x0 then (let pins := _FETCH c pins; pins) else pins
    some (c, pins)
  | 2 =>
    let pins := _SA pins ((c.PC &&& 0xFF00) ||| (c.AD &&& 0x00FF))
    let r := if (c.AD &&& 0xFF00) = (c.PC &&& 0xFF00) then (let c := { c with PC := c.AD }; let c := { c with irq_pip := c.irq_pip >>> 1 }; let c := { c with nmi_pip := c.nmi_pip >>> 1 }; let pins := _FETCH c pins; (c, pins)) else (c, pins)
    let c := r.1
    let pins := r.2
    some (c, pins)
  | 3 =>
    let c := { c with PC := c.AD }
    let pins := _FETCH c pins
    some (c, pins)
  | _ => none

/-- Decoder cases `(0xD1<<3)|0..7`: CMP (d),y (lines 2594-2601). -/
def op_D1 (step : Nat) (c : w65816_t) (pins : Nat) : Option (w65816_t × Nat) :=
  match step with
  | 0 =>
    let pins := _VPA pins
    let pins := _SA pins c.PC
    let c := { c with PC := (c.PC + 1) % 65536 }
    some (c, pins)
  | 1 =>
    let pins := _VDA pins
    let c := { c with AD := _GD pins }
    let pins := _SA pins c.AD
    some (c, pins)
  | 2 =>
    let pins := _VDA pins
    let pins := _SA pins ((c.AD + 1) &&& 0xFF)
    let c := { c with AD := _GD pins }
    some (c, pins)
  | 3 =>
    let c := { c with AD := (c.AD ||| (_GD pins <<< 8)) % 65536 }
    let pins := _SA pins ((c.AD &&& 0xFF00) ||| ((c.AD + _Y c) &&& 0xFF))
    let c := { c with IR := (c.IR + (NOT32 (SUB32 (c.AD >>> 8) ((c.AD + _Y c) >>> 8)) &&& 1)) % 65536 }
    some (c, pins)
  | 4 =>
    let pins := _VDA pins
    let pins := _SA pins (c.AD + _Y c)
    some (c, pins)
  | 5 =>
    let c := _w65816_cmp c (_A c) (_GD pins)
    let pins := _FETCH c pins
    some (c, pins)
  | _ => none

/-- Decoder cases `(0xD2<<3)|0..7`: CMP (d) (lines 2603-2610). -/
def op_D2 (step : Nat) (c : w65816_t) (pins : Nat) : Option (w65816_t × Nat) :=
  match step with
  | 0 => some (c, pins)
  | 1 =>
    let c := _w65816_cmp c (_A c) (_GD pins)
    some (c, pins)
  | 2 =>
    let pins := _FETCH c pins
    some (c, pins)
  | _ => none

/-- Decoder cases `(0xD3<<3)|0..7`: CMP (d,s),y (lines 2612-2619). -/
def op_D3 (step : Nat) (c : w65816_t) (pins : Nat) : Option (w65816_t × Nat) :=
  match step with
  | 0 => some (c, pins)
  | 1 =>
    let c := _w65816_cmp c (_A c) (_GD pins)
    some (c, pins)
  | 2 =>
    let pins := _FETCH c pins
    some (c, pins)
  | _ => none

/-- Decoder cases `(0xD4<<3)|0..7`: PEI s (unimpl) (lines 2621-2628). -/
def op_D4 (step : Nat) (c : w65816_t) (pins : Nat) : Option (w65816_t × Nat) :=
  match step with
  | 0 =>
    let pins := _SA pins c.PC
    some (c, pins)
  | 1 =>
    let pins := _FETCH c pins
    some (c, pins)
  | _ => none

/-- Decoder cases `(0xD5<<3)|0..7`: CMP d,x (lines 2630-2637). -/
def op_D5 (step : Nat) (c : w65816_t) (pins : Nat) : Option (w65816_t × Nat) :=
  match step with
  | 0 =>
    let pins := _VPA pins
    let pins := _SA pins c.PC
    let c := { c with PC := (c.PC + 1) % 65536 }
    some (c, pins)
  | 1 =>
    let c := { c with AD := _GD pins }
    let pins := _SA pins c.AD
    some (c, pins)
  | 2 =>
    let pins := _VDA pins
    let pins := if _E c then (let pins := _SA pins ((c.AD + _X c) &&& 0x00FF); pins) else (let pins := _SA pins (c.AD + _X c); pins)
    some (c, pins)
  | 3 =>
    let c := _w65816_cmp c (_A c) (_GD pins)
    let pins := _FETCH c pins
    some (c, pins)
  | _ => none

/-- Decoder cases `(0xD6<<3)|0..7`: DEC d,x (lines 2639-2646). -/
def op_D6 (step : Nat) (c : w65816_t) (pins : Nat) : Option (w65816_t × Nat) :=
  match step with
  | 0 =>
    let pins := _VPA pins
    let pins := _SA pins c.PC
    let c := { c with PC := (c.PC + 1) % 65536 }
    some (c, pins)
  | 1 =>
    let c := { c with AD := _GD pins }
    let pins := _SA pins c.AD
    some (c, pins)
  | 2 =>
    let pins := _VDA pins
    let pins := if _E c then (let pins := _SA pins ((c.AD + _X c) &&& 0x00FF); pins) else (let pins := _SA pins (c.AD + _X c); pins)
    some (c, pins)
  | 3 =>
    let c := { c with AD := _GD pins }
    let pins := if _E c then (let pins := _WR pins; pins) else pins
    some (c, pins)
  | 4 =>
    let pins := _VDA pins
    let c := { c with AD := (c.AD + 65535) % 65536 }
    let c := _NZ c c.AD
    let pins := _SD pins c.AD
    let pins := _WR pins
    some (c, pins)
  | 5 =>
    let pins := _FETCH c pins
    some (c, pins)
  | _ => none

/-- Decoder cases `(0xD7<<3)|0..7`: CMP [d],y (lines 2648-2655). -/
def op_D7 (step : Nat) (c : w65816_t) (pins : Nat) : Option (w65816_t × Nat) :=
  match step with
  | 0 => some (c, pins)
  | 1 =>
    let c := _w65816_cmp c (_A c) (_GD pins)
    some (c, pins)
  | 2 =>
    let pins := _FETCH c pins
    some (c, pins)
  | _ => none

/-- Decoder cases `(0xD8<<3)|0..7`: CLD i (lines 2657-2664). -/
def op_D8 (step : Nat) (c : w65816_t) (pins : Nat) : Option (w65816_t × Nat) :=
  match step with
  | 0 =>
    let pins := _SA pins c.PC
    some (c, pins)
  | 1 =>
    let c := { c with P := (c.P &&& NOT32 0x8) % 256 }
    let pins := _FETCH c pins
    some (c, pins)
  | _ => none

/-- Decoder cases `(0xD9<<3)|0..7`: CMP a,y (lines 2666-2673). -/
def op_D9 (step : Nat) (c : w65816_t) (pins : Nat) : Option (w65816_t × Nat) :=
  match step with
  | 0 =>
    let pins := _VPA pins
    let pins := _SA pins c.PC
    let c := { c with PC := (c.PC + 1) % 65536 }
    some (c, pins)
  | 1 =>
    let pins := _VPA pins
    let pins := _SA pins c.PC
    let c := { c with PC := (c.PC + 1) % 65536 }
    let c := { c with AD := _GD pins }
    some (c, pins)
  | 2 =>
    let c := { c with AD := (c.AD ||| (_GD pins <<< 8)) % 65536 }
    let pins := _SA pins ((c.AD &&& 0xFF00) ||| ((c.AD + _Y c) &&& 0xFF))
    let c := { c with IR := (c.IR + (NOT32 (SUB32 (c.AD >>> 8) ((c.AD + _Y c) >>> 8)) &&& 1)) % 65536 }
    some (c, pins)
  | 3 =>
    let pins := _VDA pins
    let pins := _SA pins (c.AD + _Y c)
    some (c, pins)
  | 4 =>
    let c := _w65816_cmp c (_A c) (_GD pins)
    let pins := _FETCH c pins
    some (c, pins)
  | _ => none

/-- Decoder cases `(0xDA<<3)|0..7`: PHX s (lines 2675-2682). -/
def op_DA (step : Nat) (c : w65816_t) (pins : Nat) : Option (w65816_t × Nat) :=
  match step with
  | 0 =>
    let pins := _SA pins c.PC
    some (c, pins)
  | 1 =>
    let pins := _VDA pins
    let pins := _SAD pins (0x0100 ||| _S c) (_X c)
    let c := set_S c (_S c + 255)
    let pins := _WR pins
    some (c, pins)
  | 2 =>
    let pins := _FETCH c pins
    some (c, pins)
  | _ => none

/-- Decoder cases `(0xDB<<3)|0..7`: STP i (unimpl) (lines 2684-2691). -/
def op_DB (step : Nat) (c : w65816_t) (pins : Nat) : Option (w65816_t × Nat) :=
  match step with
  | 0 =>
    let pins := _SA pins c.PC
    some (c, pins)
  | 1 => some (c, pins)
  | 2 =>
    let pins := _FETCH c pins
    some (c, pins)
  | _ => none

/-- Decoder cases `(0xDC<<3)|0..7`: JML (a) (unimpl) (lines 2693-2700). -/
def op_DC (step : Nat) (c : w65816_t) (pins : Nat) : Option (w65816_t × Nat) :=
  match step with
  | 0 =>
    let pins := _FETCH c pins
    some (c, pins)
  | _ => none

/-- Decoder cases `(0xDD<<3)|0..7`: CMP a,x (lines 2702-2709). -/
def op_DD (step : Nat) (c : w65816_t) (pins : Nat) : Option (w65816_t × Nat) :=
  match step with
  | 0 =>
    let pins := _VPA pins
    let pins := _SA pins c.PC
    let c := { c with PC := (c.PC + 1) % 65536 }
    some (c, pins)
  | 1 =>
    let pins := _VPA pins
    let pins := _SA pins c.PC
    let c := { c with PC := (c.PC + 1) % 65536 }
    let c := { c with AD := _GD pins }
    some (c, pins)
  | 2 =>
    let c := { c with AD := (c.AD ||| (_GD pins <<< 8)) % 65536 }
    let pins := _SA pins ((c.AD &&& 0xFF00) ||| ((c.AD + _X c) &&& 0xFF))
    let c := { c with IR := (c.IR + (NOT32 (SUB32 (c.AD >>> 8) ((c.AD + _X c) >>> 8)) &&& 1)) % 65536 }
    some (c, pins)
  | 3 =>
    let pins := _VDA pins
    let pins := _SA pins (c.AD + _X c)
    some (c, pins)
  | 4 =>
    let c := _w65816_cmp c (_A c) (_GD pins)
    let pins := _FETCH c pins
    some (c, pins)
  | _ => none

/-- Decoder cases `(0xDE<<3)|0..7`: DEC a,x (lines 2711-2718). -/
def op_DE (step : Nat) (c : w65816_t) (pins : Nat) : Option (w65816_t × Nat) :=
  match step with
  | 0 =>
    let pins := _VPA pins
    let pins := _SA pins c.PC
    let c := { c with PC := (c.PC + 1) % 65536 }
    some (c, pins)
  | 1 =>
    let pins := _VPA pins
    let pins := _SA pins c.PC
    let c := { c with PC := (c.PC + 1) % 65536 }
    let c := { c with AD := _GD pins }
    some (c, pins)
  | 2 =>
    let c := { c with AD := (c.AD ||| (_GD pins <<< 8)) % 65536 }
    let pins := _SA pins ((c.AD &&& 0xFF00) ||| ((c.AD + _X c) &&& 0xFF))
    some (c, pins)
  | 3 =>
    let pins := _VDA pins
    let pins := _SA pins (c.AD + _X c)
    some (c, pins)
  | 4 =>
    let c := { c with AD := _GD pins }
    let pins := if _E c then (let pins := _WR pins; pins) else pins
    some (c, pins)
  | 5 =>
    let pins := _VDA pins
    let c := { c with AD := (c.AD + 65535) % 65536 }
    let c := _NZ c c.AD
    let pins := _SD pins c.AD
    let pins := _WR pins
    some (c, pins)
  | 6 =>
    let pins := _FETCH c pins
    some (c, pins)
  | _ => none

/-- Decoder cases `(0xDF<<3)|0..7`: CMP al,x (lines 2720-2727). -/
def op_DF (step : Nat) (c : w65816_t) (pins : Nat) : Option (w65816_t × Nat) :=
  match step with
  | 0 => some (c, pins)
  | 1 =>
    let c := _w65816_cmp c (_A c) (_GD pins)
    some (c, pins)
  | 2 =>
    let pins := _FETCH c pins
    some (c, pins)
  | _ => none

/-- Decoder cases `(0xE0<<3)|0..7`: CPX # (lines 2729-2736). -/
def op_E0 (step : Nat) (c : w65816_t) (pins : Nat) : Option (w65816_t × Nat) :=
  match step with
  | 0 =>
    let pins := _VPA pins
    let pins := _SA pins c.PC
    let c := { c with PC := (c.PC + 1) % 65536 }
    some (c, pins)
  | 1 =>
    let c := _w65816_cmp c (_X c) (_GD pins)
    let pins := _FETCH c pins
    some (c, pins)
  | _ => none

/-- Decoder cases `(0xE1<<3)|0..7`: SBC (d,x) (lines 2738-2745). -/
def op_E1 (step : Nat) (c : w65816_t) (pins : Nat) : Option (w65816_t × Nat) :=
  match step with
  | 0 =>
    let pins := _VPA pins
    let pins := _SA pins c.PC
    let c := { c with PC := (c.PC + 1) % 65536 }
    some (c, pins)
  | 1 =>
    let c := { c with AD := _GD pins }
    let pins := _SA pins c.AD
    some (c, pins)
  | 2 =>
    let pins := _VDA pins
    let c := { c with AD := (c.AD + _X c) &&& 0xFF }
    let pins := _SA pins c.AD
    some (c, pins)
  | 3 =>
    let pins := _VDA pins
    let pins := _SA pins ((c.AD + 1) &&& 0xFF)
    let c := { c with AD := _GD pins }
    some (c, pins)
  | 4 =>
    let pins := _VDA pins
    let pins := _SA pins ((_GD pins <<< 8) ||| c.AD)
    some (c, pins)
  | 5 =>
    let c := _w65816_sbc c (_GD pins)
    let pins := _FETCH c pins
    some (c, pins)
  | _ => none

/-- Decoder cases `(0xE2<<3)|0..7`: SEP # (lines 2747-2754). -/
def op_E2 (step : Nat) (c : w65816_t) (pins : Nat) : Option (w65816_t × Nat) :=
  match step with
  | 0 =>
    let pins := _VPA pins
    let pins := _SA pins c.PC
    let c := { c with PC := (c.PC + 1) % 65536 }
    some (c, pins)
  | 1 =>
    let c := { c with P := (c.P ||| _GD pins) % 256 }
    let pins := _SA pins c.PC
    some (c, pins)
  | 2 =>
    let pins := _FETCH c pins
    some (c, pins)
  | _ => none

/-- Decoder cases `(0xE3<<3)|0..7`: SBC d,s (lines 2756-2763). -/
def op_E3 (step : Nat) (c : w65816_t) (pins : Nat) : Option (w65816_t × Nat) :=
  match step with
  | 0 => some (c, pins)
  | 1 =>
    let c := _w65816_sbc c (_GD pins)
    some (c, pins)
  | 2 =>
    let pins := _FETCH c pins
    some (c, pins)
  | _ => none

/-- Decoder cases `(0xE4<<3)|0..7`: CPX d (lines 2765-2772). -/
def op_E4 (step : Nat) (c : w65816_t) (pins : Nat) : Option (w65816_t × Nat) :=
  match step with
  | 0 =>
    let pins := _VPA pins
    let pins := _SA pins c.PC
    let c := { c with PC := (c.PC + 1) % 65536 }
    some (c, pins)
  | 1 =>
    let pins := _VDA pins
    let pins := _SA pins (_GD pins)
    some (c, pins)
  | 2 =>
    let c := _w65816_cmp c (_X c) (_GD pins)
    let pins := _FETCH c pins
    some (c, pins)
  | _ => none

/-- Decoder cases `(0xE5<<3)|0..7`: SBC d (lines 2774-2781). -/
def op_E5 (step : Nat) (c : w65816_t) (pins : Nat) : Option (w65816_t × Nat) :=
  match step with
  | 0 =>
    let pins := _VPA pins
    let pins := _SA pins c.PC
    let c := { c with PC := (c.PC + 1) % 65536 }
    some (c, pins)
  | 1 =>
    let pins := _VDA pins
    let pins := _SA pins (_GD pins)
    some (c, pins)
  | 2 =>
    let c := _w65816_sbc c (_GD pins)
    let pins := _FETCH c pins
    some (c, pins)
  | _ => none

/-- Decoder cases `(0xE6<<3)|0..7`: INC d (lines 2783-2790). -/
def op_E6 (step : Nat) (c : w65816_t) (pins : Nat) : Option (w65816_t × Nat) :=
  match step with
  | 0 =>
    let pins := _VPA pins
    let pins := _SA pins c.PC
    let c := { c with PC := (c.PC + 1) % 65536 }
    some (c, pins)
  | 1 =>
    let pins := _VDA pins
    let pins := _SA pins (_GD pins)
    some (c, pins)
  | 2 =>
    let c := { c with AD := _GD pins }
    let pins := if _E c then (let pins := _WR pins; pins) else pins
    some (c, pins)
  | 3 =>
    let pins := _VDA pins
    let c := { c with AD := (c.AD + 1) % 65536 }
    let c := _NZ c c.AD
    let pins := _SD pins c.AD
    let pins := _WR pins
    some (c, pins)
  | 4 =>
    let pins := _FETCH c pins
    some (c, pins)
  | _ => none

/-- Decoder cases `(0xE7<<3)|0..7`: SBC [d] (lines 2792-2799). -/
def op_E7 (step : Nat) (c : w65816_t) (pins : Nat) : Option (w65816_t × Nat) :=
  match step with
  | 0 => some (c, pins)
  | 1 =>
    let c := _w65816_sbc c (_GD pins)
    some (c, pins)
  | 2 =>
    let pins := _FETCH c pins
    some (c, pins)
  | _ => none

/-- Decoder cases `(0xE8<<3)|0..7`: INX i (lines 2801-2808). -/
def op_E8 (step : Nat) (c : w65816_t) (pins : Nat) : Option (w65816_t × Nat) :=
  match step with
  | 0 =>
    let pins := _SA pins c.PC
    some (c, pins)
  | 1 =>
    let c := set_X c (_X c + 1)
    let c := _NZ c (_X c)
    let pins := _FETCH c pins
    some (c, pins)
  | _ => none

/-- Decoder cases `(0xE9<<3)|0..7`: SBC # (lines 2810-2817). -/
def op_E9 (step : Nat) (c : w65816_t) (pins : Nat) : Option (w65816_t × Nat) :=
  match step with
  | 0 =>
    let pins := _VPA pins
    let pins := _SA pins c.PC
    let c := { c with PC := (c.PC + 1) % 65536 }
    some (c, pins)
  | 1 =>
    let c := _w65816_sbc c (_GD pins)
    let pins := _FETCH c pins
    some (c, pins)
  | _ => none

/-- Decoder cases `(0xEA<<3)|0..7`: NOP i (lines 2819-2826). -/
def op_EA (step : Nat) (c : w65816_t) (pins : Nat) : Option (w65816_t × Nat) :=
  match step with
  | 0 =>
    let pins := _SA pins c.PC
    some (c, pins)
  | 1 =>
    let pins := _FETCH c pins
    some (c, pins)
  | _ => none

/-- Decoder cases `(0xEB<<3)|0..7`: XBA i (lines 2828-2835). -/
def op_EB (step : Nat) (c : w65816_t) (pins : Nat) : Option (w65816_t × Nat) :=
  match step with
  | 0 =>
    let pins := _SA pins c.PC
    some (c, pins)
  | 1 =>
    let pins := _SA pins c.PC
    some (c, pins)
  | 2 =>
    let c := _w65816_xba c
    let pins := _FETCH c pins
    some (c, pins)
  | _ => none

/-- Decoder cases `(0xEC<<3)|0..7`: CPX a (lines 2837-2844). -/
def op_EC (step : Nat) (c : w65816_t) (pins : Nat) : Option (w65816_t × Nat) :=
  match step with
  | 0 =>
    let pins := _VPA pins
    let pins := _SA pins c.PC
    let c := { c with PC := (c.PC + 1) % 65536 }
    some (c, pins)
  | 1 =>
    let pins := _VPA pins
    let pins := _SA pins c.PC
    let c := { c with PC := (c.PC + 1) % 65536 }
    let c := { c with AD := _GD pins }
    some (c, pins)
  | 2 =>
    let pins := _SA pins ((_GD pins <<< 8) ||| c.AD)
    some (c, pins)
  | 3 =>
    let c := _w65816_cmp c (_X c) (_GD pins)
    let pins := _FETCH c pins
    some (c, pins)
  | _ => none

/-- Decoder cases `(0xED<<3)|0..7`: SBC a (lines 2846-2853). -/
def op_ED (step : Nat) (c : w65816_t) (pins : Nat) : Option (w65816_t × Nat) :=
  match step with
  | 0 =>
    let pins := _VPA pins
    let pins := _SA pins c.PC
    let c := { c with PC := (c.PC + 1) % 65536 }
    some (c, pins)
  | 1 =>
    let pins := _VPA pins
    let pins := _SA pins c.PC
    let c := { c with PC := (c.PC + 1) % 65536 }
    let c := { c with AD := _GD pins }
    some (c, pins)
  | 2 =>
    let pins := _SA pins ((_GD pins <<< 8) ||| c.AD)
    some (c, pins)
  | 3 =>
    let c := _w65816_sbc c (_GD pins)
    let pins := _FETCH c pins
    some (c, pins)
  | _ => none

/-- Decoder cases `(0xEE<<3)|0..7`: INC a (lines 2855-2862). -/
def op_EE (step : Nat) (c : w65816_t) (pins : Nat) : Option (w65816_t × Nat) :=
  match step with
  | 0 =>
    let pins := _VPA pins
    let pins := _SA pins c.PC
    let c := { c with PC := (c.PC + 1) % 65536 }
    some (c, pins)
  | 1 =>
    let pins := _VPA pins
    let pins := _SA pins c.PC
    let c := { c with PC := (c.PC + 1) % 65536 }
    let c := { c with AD := _GD pins }
    some (c, pins)
  | 2 =>
    let pins := _SA pins ((_GD pins <<< 8) ||| c.AD)
    some (c, pins)
  | 3 =>
    let c := { c with AD := _GD pins }
    let pins := if _E c then (let pins := _WR pins; pins) else pins
    some (c, pins)
  | 4 =>
    let pins := _VDA pins
    let c := { c with AD := (c.AD + 1) % 65536 }
    let c := _NZ c c.AD
    let pins := _SD pins c.AD
    let pins := _WR pins
    some (c, pins)
  | 5 =>
    let pins := _FETCH c pins
    some (c, pins)
  | _ => none

/-- Decoder cases `(0xEF<<3)|0..7`: SBC al (lines 2864-2871). -/
def op_EF (step : Nat) (c : w65816_t) (pins : Nat) : Option (w65816_t × Nat) :=
  match step with
  | 0 => some (c, pins)
  | 1 =>
    let c := _w65816_sbc c (_GD pins)
    some (c, pins)
  | 2 =>
    let pins := _FETCH c pins
    some (c, pins)
  | _ => none

/-- Decoder cases `(0xF0<<3)|0..7`: BEQ r (lines 2873-2880). -/
def op_F0 (step : Nat) (c : w65816_t) (pins : Nat) : Option (w65816_t × Nat) :=
  match step with
  | 0 =>
    let pins := _VPA pins
    let pins := _SA pins c.PC
    let c := { c with PC := (c.PC + 1) % 65536 }
    some (c, pins)
  | 1 =>
    let pins := _SA pins c.PC
    let c := { c with AD := (c.PC + SEXT8 (_GD pins)) % 65536 }
    let pins := if (c.P &&& 0x2) ≠ 0x2 then (let pins := _FETCH c pins; pins) else pins
    some (c, pins)
  | 2 =>
    let pins := _SA pins ((c.PC &&& 0xFF00) ||| (c.AD &&& 0x00FF))
    let r := if (c.AD &&& 0xFF00) = (c.PC &&& 0xFF00) then (let c := { c with PC := c.AD }; let c := { c with irq_pip := c.irq_pip >>> 1 }; let c := { c with nmi_pip := c.nmi_pip >>> 1 }; let pins := _FETCH c pins; (c, pins)) else (c, pins)
    let c := r.1
    let pins := r.2
    some (c, pins)
  | 3 =>
    let c := { c with PC := c.AD }
    let pins := _FETCH c pins
    some (c, pins)
  | _ => none

/-- Decoder cases `(0xF1<<3)|0..7`: SBC (d),y (lines 2882-2889). -/
def op_F1 (step : Nat) (c : w65816_t) (pins : Nat) : Option (w65816_t × Nat) :=
  match step with
  | 0 =>
    let pins := _VPA pins
    let pins := _SA pins c.PC
    let c := { c with PC := (c.PC + 1) % 65536 }
    some (c, pins)
  | 1 =>
    let pins := _VDA pins
    let c := { c with AD := _GD pins }
    let pins := _SA pins c.AD
    some (c, pins)
  | 2 =>
    let pins := _VDA pins
    let pins := _SA pins ((c.AD + 1) &&& 0xFF)
    let c := { c with AD := _GD pins }
    some (c, pins)
  | 3 =>
    let c := { c with AD := (c.AD ||| (_GD pins <<< 8)) % 65536 }
    let pins := _SA pins ((c.AD &&& 0xFF00) ||| ((c.AD + _Y c) &&& 0xFF))
    let c := { c with IR := (c.IR + (NOT32 (SUB32 (c.AD >>> 8) ((c.AD + _Y c) >>> 8)) &&& 1)) % 65536 }
    some (c, pins)
  | 4 =>
    let pins := _VDA pins
    let pins := _SA pins (c.AD + _Y c)
    some (c, pins)
  | 5 =>
    let c := _w65816_sbc c (_GD pins)
    let pins := _FETCH c pins
    some (c, pins)
  | _ => none

/-- Decoder cases `(0xF2<<3)|0..7`: SBC (d) (lines 2891-2898). -/
def op_F2 (step : Nat) (c : w65816_t) (pins : Nat) : Option (w65816_t × Nat) :=
  match step with
  | 0 => some (c, pins)
  | 1 =>
    let c := _w65816_sbc c (_GD pins)
    some (c, pins)
  | 2 =>
    let pins := _FETCH c pins
    some (c, pins)
  | _ => none

/-- Decoder cases `(0xF3<<3)|0..7`: SBC (d,s),y (lines 2900-2907). -/
def op_F3 (step : Nat) (c : w65816_t) (pins : Nat) : Option (w65816_t × Nat) :=
  match step with
  | 0 => some (c, pins)
  | 1 =>
    let c := _w65816_sbc c (_GD pins)
    some (c, pins)
  | 2 =>
    let pins := _FETCH c pins
    some (c, pins)
  | _ => none

/-- Decoder cases `(0xF4<<3)|0..7`: PEA s (unimpl) (lines 2909-2916). -/
def op_F4 (step : Nat) (c : w65816_t) (pins : Nat) : Option (w65816_t × Nat) :=
  match step with
  | 0 =>
    let pins := _SA pins c.PC
    some (c, pins)
  | 1 =>
    let pins := _FETCH c pins
    some (c, pins)
  | _ => none

/-- Decoder cases `(0xF5<<3)|0..7`: SBC d,x (lines 2918-2925). -/
def op_F5 (step : Nat) (c : w65816_t) (pins : Nat) : Option (w65816_t × Nat) :=
  match step with
  | 0 =>
    let pins := _VPA pins
    let pins := _SA pins c.PC
    let c := { c with PC := (c.PC + 1) % 65536 }
    some (c, pins)
  | 1 =>
    let c := { c with AD := _GD pins }
    let pins := _SA pins c.AD
    some (c, pins)
  | 2 =>
    let pins := _VDA pins
    let pins := if _E c then (let pins := _SA pins ((c.AD + _X c) &&& 0x00FF); pins) else (let pins := _SA pins (c.AD + _X c); pins)
    some (c, pins)
  | 3 =>
    let c := _w65816_sbc c (_GD pins)
    let pins := _FETCH c pins
    some (c, pins)
  | _ => none

/-- Decoder cases `(0xF6<<3)|0..7`: INC d,x (lines 2927-2934). -/
def op_F6 (step : Nat) (c : w65816_t) (pins : Nat) : Option (w65816_t × Nat) :=
  match step with
  | 0 =>
    let pins := _VPA pins
    let pins := _SA pins c.PC
    let c := { c with PC := (c.PC + 1) % 65536 }
    some (c, pins)
  | 1 =>
    let c := { c with AD := _GD pins }
    let pins := _SA pins c.AD
    some (c, pins)
  | 2 =>
    let pins := _VDA pins
    let pins := if _E c then (let pins := _SA pins ((c.AD + _X c) &&& 0x00FF); pins) else (let pins := _SA pins (c.AD + _X c); pins)
    some (c, pins)
  | 3 =>
    let c := { c with AD := _GD pins }
    let pins := if _E c then (let pins := _WR pins; pins) else pins
    some (c, pins)
  | 4 =>
    let pins := _VDA pins
    let c := { c with AD := (c.AD + 1) % 65536 }
    let c := _NZ c c.AD
    let pins := _SD pins c.AD
    let pins := _WR pins
    some (c, pins)
  | 5 =>
    let pins := _FETCH c pins
    some (c, pins)
  | _ => none

/-- Decoder cases `(0xF7<<3)|0..7`: SBC [d],y (lines 2936-2943). -/
def op_F7 (step : Nat) (c : w65816_t) (pins : Nat) : Option (w65816_t × Nat) :=
  match step with
  | 0 => some (c, pins)
  | 1 =>
    let c := _w65816_sbc c (_GD pins)
    some (c, pins)
  | 2 =>
    let pins := _FETCH c pins
    some (c, pins)
  | _ => none

/-- Decoder cases `(0xF8<<3)|0..7`: SED i (lines 2945-2952). -/
def op_F8 (step : Nat) (c : w65816_t) (pins : Nat) : Option (w65816_t × Nat) :=
  match step with
  | 0 =>
    let pins := _SA pins c.PC
    some (c, pins)
  | 1 =>
    let c := { c with P := (c.P ||| 0x8) % 256 }
    let pins := _FETCH c pins
    some (c, pins)
  | _ => none

/-- Decoder cases `(0xF9<<3)|0..7`: SBC a,y (lines 2954-2961). -/
def op_F9 (step : Nat) (c : w65816_t) (pins : Nat) : Option (w65816_t × Nat) :=
  match step with
  | 0 =>
    let pins := _VPA pins
    let pins := _SA pins c.PC
    let c := { c with PC := (c.PC + 1) % 65536 }
    some (c, pins)
  | 1 =>
    let pins := _VPA pins
    let pins := _SA pins c.PC
    let c := { c with PC := (c.PC + 1) % 65536 }
    let c := { c with AD := _GD pins }
    some (c, pins)
  | 2 =>
    let c := { c with AD := (c.AD ||| (_GD pins <<< 8)) % 65536 }
    let pins := _SA pins ((c.AD &&& 0xFF00) ||| ((c.AD + _Y c) &&& 0xFF))
    let c := { c with IR := (c.IR + (NOT32 (SUB32 (c.AD >>> 8) ((c.AD + _Y c) >>> 8)) &&& 1)) % 65536 }
    some (c, pins)
  | 3 =>
    let pins := _VDA pins
    let pins := _SA pins (c.AD + _Y c)
    some (c, pins)
  | 4 =>
    let c := _w65816_sbc c (_GD pins)
    let pins := _FETCH c pins
    some (c, pins)
  | _ => none

/-- Decoder cases `(0xFA<<3)|0..7`: PLX s (lines 2963-2970). -/
def op_FA (step : Nat) (c : w65816_t) (pins : Nat) : Option (w65816_t × Nat) :=
  match step with
  | 0 =>
    let pins := _SA pins c.PC
    some (c, pins)
  | 1 =>
    let pins := _SA pins c.PC
    some (c, pins)
  | 2 =>
    let pins := _VDA pins
    let c := set_S c (_S c + 1)
    let pins := _SA pins (0x0100 ||| _S c)
    some (c, pins)
  | 3 =>
    let c := set_X c (_GD pins)
    let c := _NZ c (_X c)
    let pins := _FETCH c pins
    some (c, pins)
  | _ => none

/-- Decoder cases `(0xFB<<3)|0..7`: XCE i (lines 2972-2979). -/
def op_FB (step : Nat) (c : w65816_t) (pins : Nat) : Option (w65816_t × Nat) :=
  match step with
  | 0 =>
    let pins := _SA pins c.PC
    some (c, pins)
  | 1 =>
    let c := _w65816_xce c
    let pins := _FETCH c pins
    some (c, pins)
  | _ => none

/-- Decoder cases `(0xFC<<3)|0..7`: JSR (a,x) (lines 2981-2988). -/
def op_FC (step : Nat) (c : w65816_t) (pins : Nat) : Option (w65816_t × Nat) :=
  match step with
  | 0 =>
    let pins := _VPA pins
    let pins := _SA pins c.PC
    let c := { c with PC := (c.PC + 1) % 65536 }
    some (c, pins)
  | 1 =>
    let pins := _VDA pins
    let pins := _SAD pins (0x0100 ||| _S c) (c.PC >>> 8)
    let c := set_S c (_S c + 255)
    let pins := _WR pins
    some (c, pins)
  | 2 =>
    let pins := _VDA pins
    let pins := _SAD pins (0x0100 ||| _S c) c.PC
    let c := set_S c (_S c + 255)
    let pins := _WR pins
    some (c, pins)
  | 3 =>
    let pins := _VPA pins
    let pins := _SA pins c.PC
    some (c, pins)
  | 4 =>
    let pins := _SA pins c.PC
    let c := { c with AD := ((_GD pins <<< 8) ||| c.AD) % 65536 }
    some (c, pins)
  | 5 =>
    let pins := _VDA pins
    let pins := _SA pins (c.AD + _X c)
    some (c, pins)
  | 6 =>
    let pins := _VDA pins
    let pins := _SA pins (c.AD + _X c + 1)
    let c := { c with AD := _GD pins }
    some (c, pins)
  | 7 =>
    let c := { c with PC := ((_GD pins <<< 8) ||| c.AD) % 65536 }
    let pins := _FETCH c pins
    some (c, pins)
  | _ => none

/-- Decoder cases `(0xFD<<3)|0..7`: SBC a,x (lines 2990-2997). -/
def op_FD (step : Nat) (c : w65816_t) (pins : Nat) : Option (w65816_t × Nat) :=
  match step with
  | 0 =>
    let pins := _VPA pins
    let pins := _SA pins c.PC
    let c := { c with PC := (c.PC + 1) % 65536 }
    some (c, pins)
  | 1 =>
    let pins := _VPA pins
    let pins := _SA pins c.PC
    let c := { c with PC := (c.PC + 1) % 65536 }
    let c := { c with AD := _GD pins }
    some (c, pins)
  | 2 =>
    let c := { c with AD := (c.AD ||| (_GD pins <<< 8)) % 65536 }
    let pins := _SA pins ((c.AD &&& 0xFF00) ||| ((c.AD + _X c) &&& 0xFF))
    let c := { c with IR := (c.IR + (NOT32 (SUB32 (c.AD >>> 8) ((c.AD + _X c) >>> 8)) &&& 1)) % 65536 }
    some (c, pins)
  | 3 =>
    let pins := _VDA pins
    let pins := _SA pins (c.AD + _X c)
    some (c, pins)
  | 4 =>
    let c := _w65816_sbc c (_GD pins)
    let pins := _FETCH c pins
    some (c, pins)
  | _ => none

/-- Decoder cases `(0xFE<<3)|0..7`: INC a,x (lines 2999-3006). -/
def op_FE (step : Nat) (c : w65816_t) (pins : Nat) : Option (w65816_t × Nat) :=
  match step with
  | 0 =>
    let pins := _VPA pins
    let pins := _SA pins c.PC
    let c := { c with PC := (c.PC + 1) % 65536 }
    some (c, pins)
  | 1 =>
    let pins := _VPA pins
    let pins := _SA pins c.PC
    let c := { c with PC := (c.PC + 1) % 65536 }
    let c := { c with AD := _GD pins }
    some (c, pins)
  | 2 =>
    let c := { c with AD := (c.AD ||| (_GD pins <<< 8)) % 65536 }
    let pins := _SA pins ((c.AD &&& 0xFF00) ||| ((c.AD + _X c) &&& 0xFF))
    some (c, pins)
  | 3 =>
    let pins := _VDA pins
    let pins := _SA pins (c.AD + _X c)
    some (c, pins)
  | 4 =>
    let c := { c with AD := _GD pins }
    let pins := if _E c then (let pins := _WR pins; pins) else pins
    some (c, pins)
  | 5 =>
    let pins := _VDA pins
    let c := { c with AD := (c.AD + 1) % 65536 }
    let c := _NZ c c.AD
    let pins := _SD pins c.AD
    let pins := _WR pins
    some (c, pins)
  | 6 =>
    let pins := _FETCH c pins
    some (c, pins)
  | _ => none

/-- Decoder cases `(0xFF<<3)|0..7`: SBC al,x (lines 3008-3015). -/
def op_FF (step : Nat) (c : w65816_t) (pins : Nat) : Option (w65816_t × Nat) :=
  match step with
  | 0 => some (c, pins)
  | 1 =>
    let c := _w65816_sbc c (_GD pins)
    some (c, pins)
  | 2 =>
    let pins := _FETCH c pins
    some (c, pins)
  | _ => none

/-- Decoder dispatch for the opcodes `0x00..0x0F`: `lo` is the low nibble of the opcode. -/
def decode_0 (lo step : Nat) (c : w65816_t) (pins : Nat) : Option (w65816_t × Nat) :=
  match lo with
  | 0x0 => op_00 step c pins
  | 0x1 => op_01 step c pins
  | 0x2 => op_02 step c pins
  | 0x3 => op_03 step c pins
  | 0x4 => op_04 step c pins
  | 0x5 => op_05 step c pins
  | 0x6 => op_06 step c pins
  | 0x7 => op_07 step c pins
  | 0x8 => op_08 step c pins
  | 0x9 => op_09 step c pins
  | 0xA => op_0A step c pins
  | 0xB => op_0B step c pins
  | 0xC => op_0C step c pins
  | 0xD => op_0D step c pins
  | 0xE => op_0E step c pins
  | 0xF => op_0F step c pins
  | _ => none

/-- Decoder dispatch for the opcodes `0x10..0x1F`: `lo` is the low nibble of the opcode. -/
def decode_1 (lo step : Nat) (c : w65816_t) (pins : Nat) : Option (w65816_t × Nat) :=
  match lo with
  | 0x0 => op_10 step c pins
  | 0x1 => op_11 step c pins
  | 0x2 => op_12 step c pins
  | 0x3 => op_13 step c pins
  | 0x4 => op_14 step c pins
  | 0x5 => op_15 step c pins
  | 0x6 => op_16 step c pins
  | 0x7 => op_17 step c pins
  | 0x8 => op_18 step c pins
  | 0x9 => op_19 step c pins
  | 0xA => op_1A step c pins
  | 0xB => op_1B step c pins
  | 0xC => op_1C step c pins
  | 0xD => op_1D step c pins
  | 0xE => op_1E step c pins
  | 0xF => op_1F step c pins
  | _ => none

/-- Decoder dispatch for the opcodes `0x20..0x2F`: `lo` is the low nibble of the opcode. -/
def decode_2 (lo step : Nat) (c : w65816_t) (pins : Nat) : Option (w65816_t × Nat) :=
  match lo with
  | 0x0 => op_20 step c pins
  | 0x1 => op_21 step c pins
  | 0x2 => op_22 step c pins
  | 0x3 => op_23 step c pins
  | 0x4 => op_24 step c pins
  | 0x5 => op_25 step c pins
  | 0x6 => op_26 step c pins
  | 0x7 => op_27 step c pins
  | 0x8 => op_28 step c pins
  | 0x9 => op_29 step c pins
  | 0xA => op_2A step c pins
  | 0xB => op_2B step c pins
  | 0xC => op_2C step c pins
  | 0xD => op_2D step c pins
  | 0xE => op_2E step c pins
  | 0xF => op_2F step c pins
  | _ => none

/-- Decoder dispatch for the opcodes `0x30..0x3F`: `lo` is the low nibble of the opcode. -/
def decode_3 (lo step : Nat) (c : w65816_t) (pins : Nat) : Option (w65816_t × Nat) :=
  match lo with
  | 0x0 => op_30 step c pins
  | 0x1 => op_31 step c pins
  | 0x2 => op_32 step c pins
  | 0x3 => op_33 step c pins
  | 0x4 => op_34 step c pins
  | 0x5 => op_35 step c pins
  | 0x6 => op_36 step c pins
  | 0x7 => op_37 step c pins
  | 0x8 => op_38 step c pins
  | 0x9 => op_39 step c pins
  | 0xA => op_3A step c pins
  | 0xB => op_3B step c pins
  | 0xC => op_3C step c pins
  | 0xD => op_3D step c pins
  | 0xE => op_3E step c pins
  | 0xF => op_3F step c pins
  | _ => none

/-- Decoder dispatch for the opcodes `0x40..0x4F`: `lo` is the low nibble of the opcode. -/
def decode_4 (lo step : Nat) (c : w65816_t) (pins : Nat) : Option (w65816_t × Nat) :=
  match lo with
  | 0x0 => op_40 step c pins
  | 0x1 => op_41 step c pins
  | 0x2 => op_42 step c pins
  | 0x3 => op_43 step c pins
  | 0x4 => op_44 step c pins
  | 0x5 => op_45 step c pins
  | 0x6 => op_46 step c pins
  | 0x7 => op_47 step c pins
  | 0x8 => op_48 step c pins
  | 0x9 => op_49 step c pins
  | 0xA => op_4A step c pins
  | 0xB => op_4B step c pins
  | 0xC => op_4C step c pins
  | 0xD => op_4D step c pins
  | 0xE => op_4E step c pins
  | 0xF => op_4F step c pins
  | _ => none

/-- Decoder dispatch for the opcodes `0x50..0x5F`: `lo` is the low nibble of the opcode. -/
def decode_5 (lo step : Nat) (c : w65816_t) (pins : Nat) : Option (w65816_t × Nat) :=
  match lo with
  | 0x0 => op_50 step c pins
  | 0x1 => op_51 step c pins
  | 0x2 => op_52 step c pins
  | 0x3 => op_53 step c pins
  | 0x4 => op_54 step c pins
  | 0x5 => op_55 step c pins
  | 0x6 => op_56 step c pins
  | 0x7 => op_57 step c pins
  | 0x8 => op_58 step c pins
  | 0x9 => op_59 step c pins
  | 0xA => op_5A step c pins
  | 0xB => op_5B step c pins
  | 0xC => op_5C step c pins
  | 0xD => op_5D step c pins
  | 0xE => op_5E step c pins
  | 0xF => op_5F step c pins
  | _ => none

/-- Decoder dispatch for the opcodes `0x60..0x6F`: `lo` is the low nibble of the opcode. -/
def decode_6 (lo step : Nat) (c : w65816_t) (pins : Nat) : Option (w65816_t × Nat) :=
  match lo with
  | 0x0 => op_60 step c pins
  | 0x1 => op_61 step c pins
  | 0x2 => op_62 step c pins
  | 0x3 => op_63 step c pins
  | 0x4 => op_64 step c pins
  | 0x5 => op_65 step c pins
  | 0x6 => op_66 step c pins
  | 0x7 => op_67 step c pins
  | 0x8 => op_68 step c pins
  | 0x9 => op_69 step c pins
  | 0xA => op_6A step c pins
  | 0xB => op_6B step c pins
  | 0xC => op_6C step c pins
  | 0xD => op_6D step c pins
  | 0xE => op_6E step c pins
  | 0xF => op_6F step c pins
  | _ => none

/-- Decoder dispatch for the opcodes `0x70..0x7F`: `lo` is the low nibble of the opcode. -/
def decode_7 (lo step : Nat) (c : w65816_t) (pins : Nat) : Option (w65816_t × Nat) :=
  match lo with
  | 0x0 => op_70 step c pins
  | 0x1 => op_71 step c pins
  | 0x2 => op_72 step c pins
  | 0x3 => op_73 step c pins
  | 0x4 => op_74 step c pins
  | 0x5 => op_75 step c pins
  | 0x6 => op_76 step c pins
  | 0x7 => op_77 step c pins
  | 0x8 => op_78 step c pins
  | 0x9 => op_79 step c pins
  | 0xA => op_7A step c pins
  | 0xB => op_7B step c pins
  | 0xC => op_7C step c pins
  | 0xD => op_7D step c pins
  | 0xE => op_7E step c pins
  | 0xF => op_7F step c pins
  | _ => none

/-- Decoder dispatch for the opcodes `0x80..0x8F`: `lo` is the low nibble of the opcode. -/
def decode_8 (lo step : Nat) (c : w65816_t) (pins : Nat) : Option (w65816_t × Nat) :=
  match lo with
  | 0x0 => op_80 step c pins
  | 0x1 => op_81 step c pins
  | 0x2 => op_82 step c pins
  | 0x3 => op_83 step c pins
  | 0x4 => op_84 step c pins
  | 0x5 => op_85 step c pins
  | 0x6 => op_86 step c pins
  | 0x7 => op_87 step c pins
  | 0x8 => op_88 step c pins
  | 0x9 => op_89 step c pins
  | 0xA => op_8A step c pins
  | 0xB => op_8B step c pins
  | 0xC => op_8C step c pins
  | 0xD => op_8D step c pins
  | 0xE => op_8E step c pins
  | 0xF => op_8F step c pins
  | _ => none

/-- Decoder dispatch for the opcodes `0x90..0x9F`: `lo` is the low nibble of the opcode. -/
def decode_9 (lo step : Nat) (c : w65816_t) (pins : Nat) : Option (w65816_t × Nat) :=
  match lo with
  | 0x0 => op_90 step c pins
  | 0x1 => op_91 step c pins
  | 0x2 => op_92 step c pins
  | 0x3 => op_93 step c pins
  | 0x4 => op_94 step c pins
  | 0x5 => op_95 step c pins
  | 0x6 => op_96 step c pins
  | 0x7 => op_97 step c pins
  | 0x8 => op_98 step c pins
  | 0x9 => op_99 step c pins
  | 0xA => op_9A step c pins
  | 0xB => op_9B step c pins
  | 0xC => op_9C step c pins
  | 0xD => op_9D step c pins
  | 0xE => op_9E step c pins
  | 0xF => op_9F step c pins
  | _ => none

/-- Decoder dispatch for the opcodes `0xA0..0xAF`: `lo` is the low nibble of the opcode. -/
def decode_A (lo step : Nat) (c : w65816_t) (pins : Nat) : Option (w65816_t × Nat) :=
  match lo with
  | 0x0 => op_A0 step c pins
  | 0x1 => op_A1 step c pins
  | 0x2 => op_A2 step c pins
  | 0x3 => op_A3 step c pins
  | 0x4 => op_A4 step c pins
  | 0x5 => op_A5 step c pins
  | 0x6 => op_A6 step c pins
  | 0x7 => op_A7 step c pins
  | 0x8 => op_A8 step c pins
  | 0x9 => op_A9 step c pins
  | 0xA => op_AA step c pins
  | 0xB => op_AB step c pins
  | 0xC => op_AC step c pins
  | 0xD => op_AD step c pins
  | 0xE => op_AE step c pins
  | 0xF => op_AF step c pins
  | _ => none

/-- Decoder dispatch for the opcodes `0xB0..0xBF`: `lo` is the low nibble of the opcode. -/
def decode_B (lo step : Nat) (c : w65816_t) (pins : Nat) : Option (w65816_t × Nat) :=
  match lo with
  | 0x0 => op_B0 step c pins
  | 0x1 => op_B1 step c pins
  | 0x2 => op_B2 step c pins
  | 0x3 => op_B3 step c pins
  | 0x4 => op_B4 step c pins
  | 0x5 => op_B5 step c pins
  | 0x6 => op_B6 step c pins
  | 0x7 => op_B7 step c pins
  | 0x8 => op_B8 step c pins
  | 0x9 => op_B9 step c pins
  | 0xA => op_BA step c pins
  | 0xB => op_BB step c pins
  | 0xC => op_BC step c pins
  | 0xD => op_BD step c pins
  | 0xE => op_BE step c pins
  | 0xF => op_BF step c pins
  | _ => none

/-- Decoder dispatch for the opcodes `0xC0..0xCF`: `lo` is the low nibble of the opcode. -/
def decode_C (lo step : Nat) (c : w65816_t) (pins : Nat) : Option (w65816_t × Nat) :=
  match lo with
  | 0x0 => op_C0 step c pins
  | 0x1 => op_C1 step c pins
  | 0x2 => op_C2 step c pins
  | 0x3 => op_C3 step c pins
  | 0x4 => op_C4 step c pins
  | 0x5 => op_C5 step c pins
  | 0x6 => op_C6 step c pins
  | 0x7 => op_C7 step c pins
  | 0x8 => op_C8 step c pins
  | 0x9 => op_C9 step c pins
  | 0xA => op_CA step c pins
  | 0xB => op_CB step c pins
  | 0xC => op_CC step c pins
  | 0xD => op_CD step c pins
  | 0xE => op_CE step c pins
  | 0xF => op_CF step c pins
  | _ => none

/-- Decoder dispatch for the opcodes `0xD0..0xDF`: `lo` is the low nibble of the opcode. -/
def decode_D (lo step : Nat) (c : w65816_t) (pins : Nat) : Option (w65816_t × Nat) :=
  match lo with
  | 0x0 => op_D0 step c pins
  | 0x1 => op_D1 step c pins
  | 0x2 => op_D2 step c pins
  | 0x3 => op_D3 step c pins
  | 0x4 => op_D4 step c pins
  | 0x5 => op_D5 step c pins
  | 0x6 => op_D6 step c pins
  | 0x7 => op_D7 step c pins
  | 0x8 => op_D8 step c pins
  | 0x9 => op_D9 step c pins
  | 0xA => op_DA step c pins
  | 0xB => op_DB step c pins
  | 0xC => op_DC step c pins
  | 0xD => op_DD step c pins
  | 0xE => op_DE step c pins
  | 0xF => op_DF step c pins
  | _ => none

/-- Decoder dispatch for the opcodes `0xE0..0xEF`: `lo` is the low nibble of the opcode. -/
def decode_E (lo step : Nat) (c : w65816_t) (pins : Nat) : Option (w65816_t × Nat) :=
  match lo with
  | 0x0 => op_E0 step c pins
  | 0x1 => op_E1 step c pins
  | 0x2 => op_E2 step c pins
  | 0x3 => op_E3 step c pins
  | 0x4 => op_E4 step c pins
  | 0x5 => op_E5 step c pins
  | 0x6 => op_E6 step c pins
  | 0x7 => op_E7 step c pins
  | 0x8 => op_E8 step c pins
  | 0x9 => op_E9 step c pins
  | 0xA => op_EA step c pins
  | 0xB => op_EB step c pins
  | 0xC => op_EC step c pins
  | 0xD => op_ED step c pins
  | 0xE => op_EE step c pins
  | 0xF => op_EF step c pins
  | _ => none

/-- Decoder dispatch for the opcodes `0xF0..0xFF`: `lo` is the low nibble of the opcode. -/
def decode_F (lo step : Nat) (c : w65816_t) (pins : Nat) : Option (w65816_t × Nat) :=
  match lo with
  | 0x0 => op_F0 step c pins
  | 0x1 => op_F1 step c pins
  | 0x2 => op_F2 step c pins
  | 0x3 => op_F3 step c pins
  | 0x4 => op_F4 step c pins
  | 0x5 => op_F5 step c pins
  | 0x6 => op_F6 step c pins
  | 0x7 => op_F7 step c pins
  | 0x8 => op_F8 step c pins
  | 0x9 => op_F9 step c pins
  | 0xA => op_FA step c pins
  | 0xB => op_FB step c pins
  | 0xC => op_FC step c pins
  | 0xD => op_FD step c pins
  | 0xE => op_FE step c pins
  | 0xF => op_FF step c pins
  | _ => none

/-- The decoder `switch` (lines 710-3018): `ir` is the value of `c->IR` before the
post-increment, `c` the state after it.  The case label `(opcode<<3)|step` is split into the
high nibble `ir / 128` of the opcode, its low nibble `ir / 8 % 16` and the sub-cycle `ir % 8`;
values of `ir` above `0x7FF` reach the unreachable `default:` arm. -/
def w65816_decode (ir : Nat) (c : w65816_t) (pins : Nat) : Option (w65816_t × Nat) :=
  match ir / 128 with
  | 0x0 => decode_0 (ir / 8 % 16) (ir % 8) c pins
  | 0x1 => decode_1 (ir / 8 % 16) (ir % 8) c pins
  | 0x2 => decode_2 (ir / 8 % 16) (ir % 8) c pins
  | 0x3 => decode_3 (ir / 8 % 16) (ir % 8) c pins
  | 0x4 => decode_4 (ir / 8 % 16) (ir % 8) c pins
  | 0x5 => decode_5 (ir / 8 % 16) (ir % 8) c pins
  | 0x6 => decode_6 (ir / 8 % 16) (ir % 8) c pins
  | 0x7 => decode_7 (ir / 8 % 16) (ir % 8) c pins
  | 0x8 => decode_8 (ir / 8 % 16) (ir % 8) c pins
  | 0x9 => decode_9 (ir / 8 % 16) (ir % 8) c pins
  | 0xA => decode_A (ir / 8 % 16) (ir % 8) c pins
  | 0xB => decode_B (ir / 8 % 16) (ir % 8) c pins
  | 0xC => decode_C (ir / 8 % 16) (ir % 8) c pins
  | 0xD => decode_D (ir / 8 % 16) (ir % 8) c pins
  | 0xE => decode_E (ir / 8 % 16) (ir % 8) c pins
  | 0xF => decode_F (ir / 8 % 16) (ir % 8) c pins
  | _ => none

/-! ## The tick function (lines 652-3036) -/

/-- Interrupt detection at the top of `w65816_tick` (lines 656-663): the NMI edge test against
the stored `PINS` and the level test of IRQ under the I flag. -/
def tick_detect (c : w65816_t) (pins : Nat) : w65816_t :=
  let c :=
    if 0 ≠ ((pins &&& (pins ^^^ c.PINS)) &&& W65816_NMI) then
      { c with nmi_pip := (c.nmi_pip ||| 0x100) % 65536 }
    else c
  let c :=
    if pins &&& W65816_IRQ ≠ 0 ∧ 0 = (c.P &&& W65816_IF) then
      { c with irq_pip := (c.irq_pip ||| 0x100) % 65536 }
    else c
  c

/-- The three latch tests of the sync handling (lines 683-691): IRQ from bit 10 of `irq_pip`,
NMI from bits 10-15 of `nmi_pip`, RESET from the RES pin. -/
def tick_sync_latch (c : w65816_t) (pins : Nat) : w65816_t :=
  let c := if 0 ≠ (c.irq_pip &&& 0x400) then { c with brk_flags := (c.brk_flags ||| W65816_BRK_IRQ) % 256 } else c
  let c := if 0 ≠ (c.nmi_pip &&& 0xFC00) then { c with brk_flags := (c.brk_flags ||| W65816_BRK_NMI) % 256 } else c
  let c := if 0 ≠ (pins &&& W65816_RES) then { c with brk_flags := (c.brk_flags ||| W65816_BRK_RESET) % 256 } else c
  c

/-- The end of the sync handling (lines 696-703): force a BRK if an interrupt or reset was
requested, else increment PC. -/
def tick_sync_force (c : w65816_t) (pins : Nat) : w65816_t × Nat :=
  if c.brk_flags ≠ 0 then
    let c := { c with IR := 0 }
    let c := { c with P := (c.P &&& NOT32 W65816_BF) % 256 }
    let pins := pins &&& NOT64 W65816_RES
    (c, pins)
  else
    let c := { c with PC := (c.PC + 1) % 65536 }
    (c, pins)

/-- Sync handling of `w65816_tick` (lines 672-703), taken when VPA and VDA are both set:
load the opcode, latch interrupt and reset requests, mask the pipelines, force BRK or
increment PC. -/
def tick_sync (c : w65816_t) (pins : Nat) : w65816_t × Nat :=
  let c := { c with IR := (_GD pins <<< 3) % 65536 }
  let c := tick_sync_latch c pins
  let c := { c with irq_pip := c.irq_pip &&& 0x3FF }
  let c := { c with nmi_pip := c.nmi_pip &&& 0x3FF }
  tick_sync_force c pins

/-- Lines 708-3018 of `w65816_tick`: `_RD()` and `switch (c->IR++)`. -/
def tick_decode (c : w65816_t) (pins : Nat) : Option (w65816_t × Nat) :=
  let pins := _RD pins
  let ir := c.IR
  let c := { c with IR := (c.IR + 1) % 65536 }
  w65816_decode ir c pins

/-- Bottom of `w65816_tick` (lines 3019-3035): store the pins, shift both interrupt pipelines,
normalise S, P, X and Y for emulation mode and 8-bit index registers. -/
def tick_finish (c : w65816_t) (pins : Nat) : w65816_t × Nat :=
  let c := { c with PINS := pins }
  let c := { c with irq_pip := (c.irq_pip <<< 1) % 65536 }
  let c := { c with nmi_pip := (c.nmi_pip <<< 1) % 65536 }
  let c :=
    if c.emulation ≠ 0 then
      let c := { c with S := 0x0100 ||| (c.S &&& 0xFF) }
      { c with P := (c.P ||| W65816_UF) % 256 }
    else c
  let c :=
    if (c.emulation ||| (c.P &&& W65816_XF)) ≠ 0 then
      let c := { c with X := c.X &&& 0xFF }
      { c with Y := c.Y &&& 0xFF }
    else c
  (c, pins)

/-- Function `w65816_tick` (lines 652-3036): one clock tick; the new state and the returned pins,
or `none` when the tick runs into `assert(false)` or the unreachable `default:`. -/
def w65816_tick (c : w65816_t) (pins : Nat) : Option (w65816_t × Nat) :=
  if pins &&& (W65816_VPA ||| W65816_VDA ||| W65816_IRQ ||| W65816_NMI ||| W65816_RDY ||| W65816_RES) ≠ 0 then
    let c := tick_detect c pins
    if (pins &&& (W65816_RW ||| W65816_RDY)) = (W65816_RW ||| W65816_RDY) then
      let c := { c with PINS := pins }
      let c := { c with irq_pip := (c.irq_pip <<< 1) % 65536 }
      some (c, pins)
    else
      let r := if pins &&& W65816_VPA ≠ 0 ∧ pins &&& W65816_VDA ≠ 0 then tick_sync c pins else (c, pins)
      let c := r.1
      let pins := r.2
      let pins := _OFF pins (W65816_VPA ||| W65816_VDA)
      (tick_decode c pins).map (fun r => tick_finish r.1 r.2)
  else
    (tick_decode c pins).map (fun r => tick_finish r.1 r.2)

/-! ## The documented host loop (header comment, lines 76-99) -/

/-- Host memory `uint8_t mem[1<<24]` as a function from addresses to bytes. -/
abbrev Mem := Nat → Nat

/-- Memory access of the host loop (lines 87-97) after a tick returned `pins`: a read puts
`mem[addr]` on the data bus, a write stores the data bus at `mem[addr]`. -/
def host_access (mem : Mem) (pins : Nat) : Mem × Nat :=
  let addr := W65816_GET_ADDR pins
  if pins &&& W65816_RW ≠ 0 then
    (mem, W65816_SET_DATA pins (mem addr % 256))
  else
    (fun a => if a = addr then W65816_GET_DATA pins else mem a, pins)

/-- Machine configuration of the host loop: CPU state, pin word and memory. -/
structure Sys where
  cpu : w65816_t
  pins : Nat
  mem : Mem

/-- One iteration of the host loop: tick, then the memory access. -/
def host_step (s : Sys) : Option Sys :=
  match w65816_tick s.cpu s.pins with
  | none => none
  | some (c, pins) =>
    let r := host_access s.mem pins
    some { cpu := c, pins := r.2, mem := r.1 }

/-- The host loop run for `n` iterations. -/
def host_run : Nat → Sys → Option Sys
  | 0, s => some s
  | n + 1, s =>
    match host_step s with
    | none => none
    | some s1 => host_run n s1

/-- Start of the host loop: `pins = w65816_init(&cpu, &desc)` with memory `mem`. -/
def host_init (bcd_disabled : Bool) (mem : Mem) : Sys :=
  { cpu := (w65816_init bcd_disabled).1, pins := (w65816_init bcd_disabled).2, mem := mem }

/-- The state and the pin word returned by the tick of iteration `n` (counted from 0) of the
host loop started in `s`. -/
def host_tick (n : Nat) (s : Sys) : Option (w65816_t × Nat) :=
  match host_run n s with
  | none => none
  | some s1 => w65816_tick s1.cpu s1.pins

/-- The host raises the input lines `m` (for instance `W65816_NMI`) in the pin word that it
passes to the next tick (header comment, lines 107-110). -/
def host_raise (m : Nat) (s : Sys) : Sys :=
  { s with pins := s.pins ||| m }

/-! ## Field view of the pin word

The pin word is a `uint64_t` with the layout of lines 186-232.  `PinF` names its fields and
`PinF.word` assembles the word, so that runs of the tick function can be followed field by
field. -/

/-- Fields of a pin word: address `A0-A15`, data `D0-D7`, the eight control pins, the bank
byte `A16-A23` and the unused bits 40-63. -/
structure PinF where
  a : Nat
  d : Nat
  rw : Bool
  vpa : Bool
  vda : Bool
  irq : Bool
  nmi : Bool
  rdy : Bool
  res : Bool
  abort : Bool
  bank : Nat
  hi : Nat

/-- The 64-bit pin word with the given fields (pin positions of lines 186-232): every field
is placed at its bit position; the fields do not overlap, so the sum is their bitwise union. -/
def PinF.word (f : PinF) : Nat :=
  f.a % 2^16 + (f.d % 2^8) * 2^16 + f.rw.toNat * 2^24 + f.vpa.toNat * 2^25 + f.vda.toNat * 2^26 +
  f.irq.toNat * 2^27 + f.nmi.toNat * 2^28 + f.rdy.toNat * 2^29 + f.res.toNat * 2^30 +
  f.abort.toNat * 2^31 + (f.bank % 2^8) * 2^32 + (f.hi % 2^24) * 2^40

/-- The value of `brk_flags` after the three latch tests of the sync handling (lines 683-691):
IRQ from bit 10 of `irq_pip`, NMI from bits 10-15 of `nmi_pip`, RESET from the RES pin `res`. -/
def sync_flags (c : w65816_t) (res : Bool) : Nat :=
  let b0 := c.brk_flags
  let b1 := if 0 ≠ (c.irq_pip &&& 0x400) then (b0 ||| W65816_BRK_IRQ) % 256 else b0
  let b2 := if 0 ≠ (c.nmi_pip &&& 0xFC00) then (b1 ||| W65816_BRK_NMI) % 256 else b1
  if res then (b2 ||| W65816_BRK_RESET) % 256 else b2

/-- Pin fields with the input lines IRQ, NMI, RDY, RES and ABORT low and bits 40-63 clear. -/
def qpins (a d : Nat) (rw vpa vda : Bool) (bank : Nat) : PinF :=
  { a := a, d := d, rw := rw, vpa := vpa, vda := vda, irq := false, nmi := false, rdy := false,
    res := false, abort := false, bank := bank, hi := 0 }

/-- Decoder case `ir` is sub-cycle 2 of a relative branch (BPL 0x10, BMI 0x30, BVC 0x50,
BVS 0x70, BRA 0x80, BCC 0x90, BCS 0xB0, BNE 0xD0, BEQ 0xF0) whose target `AD` lies in the page
of `PC` (lines 859, 1147, 1435, 1723, 1867, 2011, 2299, 2587, 2875): the decoder cases that
execute `c->irq_pip>>=1;c->nmi_pip>>=1;`. -/
def branch_delay (ir : Nat) (c : w65816_t) : Bool :=
  ir % 8 == 2 && ir / 8 % 16 == 0 &&
  (ir / 128 == 0x1 || ir / 128 == 0x3 || ir / 128 == 0x5 || ir / 128 == 0x7 || ir / 128 == 0x8 ||
    ir / 128 == 0x9 || ir / 128 == 0xB || ir / 128 == 0xD || ir / 128 == 0xF) &&
  ((c.AD &&& 0xFF00) == (c.PC &&& 0xFF00))

/-- Pin fields with the NMI line at `nmi`, the input lines IRQ, RDY, RES and ABORT low and
bits 40-63 clear. -/
def ipins (a d : Nat) (rw vpa vda nmi : Bool) (bank : Nat) : PinF :=
  { a := a, d := d, rw := rw, vpa := vpa, vda := vda, irq := false, nmi := nmi, rdy := false,
    res := false, abort := false, bank := bank, hi := 0 }

/-! ## The sub-cycle counter and the host protocol

Notions used to state that the decoder never runs into `assert(false)`. -/

/-- The pin word announces an opcode fetch: VPA and VDA are both set, the test of line 672
(header comment, lines 117-118). -/
def sync_out (pins : Nat) : Bool :=
  decide (pins &&& W65816_VPA ≠ 0 ∧ pins &&& W65816_VDA ≠ 0)

/-- Decoder case `ir` is implemented: the `switch` arm `case ir` is neither `assert(false)` nor
the `default:` arm.  Whether an arm asserts does not depend on the state or the pins
(`decode_isSome`), so it is read off at the state after `w65816_init` and the pin word 0. -/
def implemented (ir : Nat) : Bool := (w65816_decode ir (w65816_init false).1 0).isSome

/-- The bits of the pin word that the host may change between two ticks: the data bus D0-D7
and the input pins IRQ, NMI, RDY and RES (header comment, lines 72-110). -/
def host_bits : Nat := 0xFF0000 ||| W65816_IRQ ||| W65816_NMI ||| W65816_RDY ||| W65816_RES

/-- The host protocol between two ticks: `q`, the pin word passed to the next tick, is the
returned 64-bit pin word `p` with at most the bits `host_bits` changed. -/
def host_fed (p q : Nat) : Bool := q &&& NOT64 host_bits == p &&& NOT64 host_bits

/-- The loop `pins = w65816_tick(&cpu, pins); pins = env k pins;` run for `n` iterations from
the state and pin word `s`, where `env k` is what the host does to the pin word after tick
number `k`; `none` when a tick runs into `assert(false)`. -/
def fed_run (env : Nat → Nat → Nat) : Nat → Nat → w65816_t × Nat → Option (w65816_t × Nat)
  | 0, _, s => some s
  | n + 1, k, s =>
    match w65816_tick s.1 s.2 with
    | none => none
    | some r => fed_run env n (k + 1) (r.1, env k r.2)

/-! ## Opcode fetches -/

/-- A decoder result `r` reached from the pin word `pins` fetches at the program counter: if
`r` carries VPA and VDA, its address lines A0-A15 hold `PC` and its bank lines A16-A23 (pin
bits 32-39) are those of `pins`. -/
def fetch_ok (pins : Nat) (r : w65816_t × Nat) : Prop :=
  sync_out r.2 = true →
    _GA r.2 = r.1.PC % 65536 ∧ W65816_GET_BANK r.2 = W65816_GET_BANK pins

instance fetch_ok_decidable (pins : Nat) (r : w65816_t × Nat) : Decidable (fetch_ok pins r) := by
  unfold fetch_ok
  exact inferInstance

/-- Function `w65816_set_pb` (line 416). -/
def w65816_set_pb (cpu : w65816_t) (v : Nat) : w65816_t := { cpu with PBR := v % 256 }

/-! ## The CGIA video unit (`cgia.c`)

`cgia.c` includes `cgia.h` and the firmware's `cgia.h`, `cgia_encode.h` and `cgia.c`, none of
which is part of the sources.  Their constants and pin accessors are the fields of
`cgia_header`, the firmware functions `cgia_render` and `cgia_task` are the fields of
`cgia_firmware`; every definition below takes them as parameters. -/

/-- Constants and pin accessors used by `cgia.c` and declared in the absent headers. -/
structure cgia_header where
  CGIA_FIXEDPOINT_SCALE : Int
  MODE_H_TOTAL_PIXELS : Int
  MODE_BIT_CLK_KHZ : Int
  MODE_V_TOTAL_LINES : Int
  MODE_V_FRONT_PORCH : Int
  MODE_V_SYNC_WIDTH : Int
  MODE_V_BACK_PORCH : Int
  FB_V_REPEAT : Int
  FB_H_REPEAT : Nat
  CGIA_ACTIVE_WIDTH : Nat
  CGIA_FRAMEBUFFER_WIDTH : Int
  CGIA_LINEBUFFER_PADDING : Nat
  CGIA_CS : Nat
  CGIA_RW : Nat
  CGIA_GET_ADDR : Nat → Nat
  CGIA_GET_DATA : Nat → Nat
  CGIA_SET_DATA : Nat → Nat → Nat

/-- The fields of `cgia_t` used by `cgia.c`: the fixed-point horizontal counter and its period,
the line counter, the active line, the line buffer (`uint32_t` entries by index), the frame
buffer (`uint8_t` entries by offset from `fb`), the register file, the stored pins, and the
state `fw` that only the firmware functions see (VRAM cache, interpolators, plane state).  The
counters are signed integers; no wrap-around is modelled for them. -/
structure cgia_t (F : Type) where
  h_count : Int
  h_period : Int
  l_count : Int
  active_line : Int
  linebuffer : Nat → Nat
  fb : Int → Nat
  reg : Nat → Nat
  pins : Nat
  fw : F

/-- The firmware functions called by `cgia.c`.  `cgia_render(y, src)` rasterises line `y` into
the line buffer; it is given the firmware state, the register file, `y` and the line buffer and
returns the new firmware state, register file and line buffer.  `cgia_task()` is given the
firmware state and the register file and returns them.  Neither has access to the counters or
to the frame buffer. -/
structure cgia_firmware (F : Type) where
  cgia_render : F → (Nat → Nat) → Int → (Nat → Nat) → F × (Nat → Nat) × (Nat → Nat)
  cgia_task : F → (Nat → Nat) → F × (Nat → Nat)

/-- Conversion `(int)tmp` of an `int64_t` to a 32-bit `int`. -/
def cgia_int32 (x : Int) : Int := (x + 2 ^ 31) % 2 ^ 32 - 2 ^ 31

/-- Function `cgia_init` (lines 24-48): `none` when the assertion on `tick_hz` fails (the
assertions on the pointers are outside the model); otherwise the state is zeroed, `fb` points
to the frame buffer `fb` of the descriptor and `h_period` is computed with a truncating
64-bit division. -/
def cgia_init {F : Type} (m : cgia_header) (tick_hz : Int) (fb : Int → Nat) (fw : F) :
    Option (cgia_t F) :=
  if 0 < tick_hz ∧ tick_hz < m.MODE_BIT_CLK_KHZ * 1000 then
    let tmp := Int.tdiv (m.MODE_H_TOTAL_PIXELS * tick_hz * m.CGIA_FIXEDPOINT_SCALE)
      (m.MODE_BIT_CLK_KHZ * 1000)
    some (cgia_t.mk 0 (cgia_int32 tmp) 0 0 (fun _ => 0) fb (fun _ => 0) 0 fw)
  else none

/-- Function `cgia_reset` (lines 50-55). -/
def cgia_reset {F : Type} (vpu : cgia_t F) : cgia_t F :=
  let vpu := { vpu with h_count := 0 }
  { vpu with l_count := 0 }

/-- The inner loop of lines 85-87, `for (uint r = 0; r < FB_H_REPEAT; ++r) *dst++ = *src & 0xFF;`
with `n` iterations left: the frame buffer and `dst`. -/
def cgia_copy_pixel (v : Nat) : Nat → (Int → Nat) × Int → (Int → Nat) × Int
  | 0, s => s
  | n + 1, s => cgia_copy_pixel v n (fun i => if i = s.2 then v &&& 0xFF else s.1 i, s.2 + 1)

/-- The outer loop of lines 84-88, `for (uint x = 0; x < CGIA_ACTIVE_WIDTH; ++x, ++src)`, with
`n` iterations left: `src` as an index into the line buffer, the frame buffer and `dst`. -/
def cgia_copy_line (m : cgia_header) (linebuffer : Nat → Nat) :
    Nat → Nat × (Int → Nat) × Int → Nat × (Int → Nat) × Int
  | 0, s => s
  | n + 1, s =>
    cgia_copy_line m linebuffer n (s.1 + 1, cgia_copy_pixel (linebuffer s.1) m.FB_H_REPEAT s.2)

/-- Lines 64-70 of `_cgia_tick`: the line counter is incremented and rewound at
`MODE_V_TOTAL_LINES`. -/
def cgia_next_line {F : Type} (m : cgia_header) (vpu : cgia_t F) : cgia_t F :=
  let vpu := { vpu with l_count := vpu.l_count + 1 }
  if vpu.l_count ≥ m.MODE_V_TOTAL_LINES then { vpu with l_count := 0 } else vpu

/-- Lines 74-81 of `_cgia_tick`: behind the porches and the sync the active line is set, and
every `FB_V_REPEAT`-th active line is rasterised by `cgia_render`. -/
def cgia_rasterize {F : Type} (m : cgia_header) (f : cgia_firmware F) (vpu : cgia_t F) :
    cgia_t F :=
  if vpu.l_count ≥ m.MODE_V_FRONT_PORCH + m.MODE_V_SYNC_WIDTH + m.MODE_V_BACK_PORCH then
    let vpu := { vpu with active_line :=
      vpu.l_count - (m.MODE_V_FRONT_PORCH + m.MODE_V_SYNC_WIDTH + m.MODE_V_BACK_PORCH) }
    if Int.tmod vpu.active_line m.FB_V_REPEAT = 0 then
      let r := f.cgia_render vpu.fw vpu.reg (Int.tdiv vpu.active_line m.FB_V_REPEAT)
        vpu.linebuffer
      { vpu with fw := r.1, reg := r.2.1, linebuffer := r.2.2 }
    else vpu
  else vpu

/-- Lines 72 and 83-88 of `_cgia_tick`: the line buffer behind its padding is copied to the
frame buffer row of the active line. -/
def cgia_copy_row {F : Type} (m : cgia_header) (vpu : cgia_t F) : cgia_t F :=
  let src := m.CGIA_LINEBUFFER_PADDING
  let dst := vpu.active_line * m.CGIA_FRAMEBUFFER_WIDTH
  let r := cgia_copy_line m vpu.linebuffer m.CGIA_ACTIVE_WIDTH (src, vpu.fb, dst)
  { vpu with fb := r.2.1 }

/-- Function `_cgia_tick` (lines 57-92). -/
def _cgia_tick {F : Type} (m : cgia_header) (f : cgia_firmware F) (vpu : cgia_t F) (pins : Nat) :
    cgia_t F × Nat :=
  let vpu := { vpu with h_count := vpu.h_count + m.CGIA_FIXEDPOINT_SCALE }
  if vpu.h_count ≥ vpu.h_period then
    let vpu := { vpu with h_count := vpu.h_count - vpu.h_period }
    let vpu := cgia_next_line m vpu
    let vpu := cgia_rasterize m f vpu
    let vpu := cgia_copy_row m vpu
    (vpu, pins)
  else (vpu, pins)

/-- The register access of `cgia_tick` (lines 106-116) when the chip is selected. -/
def cgia_reg_access {F : Type} (m : cgia_header) (vpu : cgia_t F) (pins : Nat) : cgia_t F × Nat :=
  if pins &&& m.CGIA_CS ≠ 0 then
    let addr := m.CGIA_GET_ADDR pins % 256
    if pins &&& m.CGIA_RW ≠ 0 then
      let data := vpu.reg addr % 256
      (vpu, m.CGIA_SET_DATA pins data)
    else
      let data := m.CGIA_GET_DATA pins % 256
      ({ vpu with reg := fun a => if a = addr then data else vpu.reg a }, pins)
  else (vpu, pins)

/-- Function `cgia_tick` (lines 104-122); `_cgia_read` and `_cgia_write` (lines 96-102) are
the register load and store of `cgia_reg_access`. -/
def cgia_tick {F : Type} (m : cgia_header) (f : cgia_firmware F) (vpu : cgia_t F) (pins : Nat) :
    cgia_t F × Nat :=
  let r := _cgia_tick m f vpu pins
  let r := cgia_reg_access m r.1 r.2
  let vpu := r.1
  let pins := r.2
  let t := f.cgia_task vpu.fw vpu.reg
  let vpu := { vpu with fw := t.1, reg := t.2 }
  let vpu := { vpu with pins := pins }
  (vpu, pins)

/-- The state after calling `cgia_tick` once for every pin word of the list, in order. -/
def cgia_run {F : Type} (m : cgia_header) (f : cgia_firmware F) :
    List Nat → cgia_t F → cgia_t F
  | [], vpu => vpu
  | p :: ps, vpu => cgia_run m f ps (cgia_tick m f vpu p).1

/-! ## Binary-coded decimal bytes -/

/-- A byte is valid BCD when both of its nibbles are at most 9. -/
def bcd_valid (x : Nat) : Prop := x < 256 ∧ x / 16 ≤ 9 ∧ x % 16 ≤ 9

instance bcd_valid_decidable (x : Nat) : Decidable (bcd_valid x) := by
  unfold bcd_valid
  exact inferInstance

/-- The decimal value of a BCD byte: ten times the high nibble plus the low nibble. -/
def bcd_value (x : Nat) : Nat := x / 16 * 10 + x % 16

/-- The BCD byte of a number below 100: the tens in the high nibble, the units in the low
nibble. -/
def bcd_encode (n : Nat) : Nat := n / 10 * 16 + n % 10

/-! ## The VRAM cache of the CGIA (`cgia.c`, lines 22 and 358-373)

`vram_wanted_bank_mask` and `vram_cache_bank_mask` are globals of the firmware source that
`cgia.c` includes; `fetch_cb` is the callback stored in the `cgia_t` by `cgia_init`, taken here
with its `user_data` argument bound, as a function from the address to the returned pin word
that has no effect on the cache. -/

/-- The global `vram_cache[2][256 * 256]` of `cgia.c` (line 22) and the two bank mask arrays
of the firmware, each indexed by the bank. -/
structure cgia_vram where
  vram_cache : Nat → Nat → Nat
  vram_wanted_bank_mask : Nat → Nat
  vram_cache_bank_mask : Nat → Nat

/-- The loop of `_cgia_copy_vcache_bank` (lines 359-362) on the row `vram_cache[bank]`, with `n`
iterations left at offset `i`: the byte at offset `i` becomes the `uint8_t` value of
`CGIA_GET_DATA(fetch_cb(wanted | i))`. -/
def cgia_copy_vcache_loop (m : cgia_header) (fetch_cb : Nat → Nat) (wanted : Nat) :
    Nat → Nat → (Nat → Nat) → (Nat → Nat)
  | 0, _, row => row
  | n + 1, i, row =>
    cgia_copy_vcache_loop m fetch_cb wanted n (i + 1)
      (fun j => if j = i then m.CGIA_GET_DATA (fetch_cb (wanted ||| i)) % 256 else row j)

/-- Function `_cgia_copy_vcache_bank` (lines 358-363); `bank` is a `uint8_t` parameter. -/
def _cgia_copy_vcache_bank (m : cgia_header) (fetch_cb : Nat → Nat) (g : cgia_vram) (bank : Nat) :
    cgia_vram :=
  let bank := bank % 256
  let row := cgia_copy_vcache_loop m fetch_cb (g.vram_wanted_bank_mask bank) (256 * 256) 0
    (g.vram_cache bank)
  { g with vram_cache := fun b => if b = bank then row else g.vram_cache b }

/-- Function `_cgia_transfer_vcache_bank` (lines 364-369).  `CGIA_vpu` is the global pointer
set by `cgia_init` and cleared by `cgia_reset`, given here by the callback of the `cgia_t` it
points to; `none` is the null pointer, on which `assert(CGIA_vpu)` fails. -/
def _cgia_transfer_vcache_bank (m : cgia_header) (CGIA_vpu : Option (Nat → Nat)) (g : cgia_vram)
    (bank : Nat) : Option cgia_vram :=
  match CGIA_vpu with
  | none => none
  | some fetch_cb =>
    let bank := bank % 256
    if g.vram_wanted_bank_mask bank ≠ g.vram_cache_bank_mask bank then
      some (_cgia_copy_vcache_bank m fetch_cb g bank)
    else some g

/-- Function `cgia_mirror_vram` (lines 370-373). -/
def cgia_mirror_vram (m : cgia_header) (fetch_cb : Nat → Nat) (g : cgia_vram) : cgia_vram :=
  let g := _cgia_copy_vcache_bank m fetch_cb g 0
  _cgia_copy_vcache_bank m fetch_cb g 1

/-! ## The interpolator stand-ins of `cgia.c` (lines 150-215)

`uintptr_t` is taken as 64 bits wide.  The arrays `accum[2]` and `base[3]` are functions of the
index; the functions of `cgia.c` use the indices 0 and 1 only. -/

/-- The type `interp_hw_t` (lines 150-154); `mode` is 0 for `INTERP_DEFAULT` and 1 for
`INTERP_MODE7`. -/
structure interp_hw_t where
  accum : Nat → Nat
  base : Nat → Nat
  mode : Nat

/-- The global `interp_hw_array[2]` (line 156): `interp0` and `interp1`. -/
structure interp_hw_array where
  interp0 : interp_hw_t
  interp1 : interp_hw_t

/-- The interpolator that a pointer `interp` designates: index 0 is `interp0` (line 157), any
other index is `interp1` (line 158). -/
def interp_at (a : interp_hw_array) (interp : Nat) : interp_hw_t :=
  if interp = 0 then a.interp0 else a.interp1

/-- Store through a pointer `interp`. -/
def interp_store (a : interp_hw_array) (interp : Nat) (v : interp_hw_t) : interp_hw_array :=
  if interp = 0 then { a with interp0 := v } else { a with interp1 := v }

/-- Array store `arr[i] = v`. -/
def array_set (arr : Nat → Nat) (i v : Nat) : Nat → Nat := fun j => if j = i then v else arr j

/-- Function `set_default_interp_config` (lines 184-191). -/
def set_default_interp_config (a : interp_hw_array) : interp_hw_array :=
  let i0 := { a.interp0 with mode := 0 }
  let i0 := { i0 with base := array_set i0.base 0 1 }
  let i0 := { i0 with base := array_set i0.base 1 1 }
  let i1 := { a.interp1 with mode := 0 }
  let i1 := { i1 with base := array_set i1.base 0 1 }
  let i1 := { i1 with base := array_set i1.base 1 1 }
  { interp0 := i0, interp1 := i1 }

/-- Function `set_interp_scans` (lines 192-201); `row_height` is a `uint8_t` parameter, the
three scans are pointers converted to `uintptr_t`. -/
def set_interp_scans (a : interp_hw_array) (row_height memory_scan colour_scan backgr_scan : Nat) :
    interp_hw_array :=
  let i0 := { a.interp0 with base := array_set a.interp0.base 0 (row_height % 256) }
  let i0 := { i0 with accum := array_set i0.accum 0 (memory_scan % 2 ^ 64) }
  let i1 := { a.interp1 with accum := array_set a.interp1.accum 0 (colour_scan % 2 ^ 64) }
  let i1 := { i1 with accum := array_set i1.accum 1 (backgr_scan % 2 ^ 64) }
  { interp0 := i0, interp1 := i1 }

/-- Function `interp_get_accumulator` (lines 205-207). -/
def interp_get_accumulator (a : interp_hw_array) (interp lane : Nat) : Nat :=
  (interp_at a interp).accum lane

/-- Function `interp_pop_lane_result` (lines 208-212): both accumulators of `interp` are
advanced by the bases of `interp0`; the new state and the returned accumulator. -/
def interp_pop_lane_result (a : interp_hw_array) (interp lane : Nat) : interp_hw_array × Nat :=
  let i := interp_at a interp
  let a := interp_store a interp
    { i with accum := array_set i.accum 0 ((i.accum 0 + a.interp0.base 0) % 2 ^ 64) }
  let i := interp_at a interp
  let a := interp_store a interp
    { i with accum := array_set i.accum 1 ((i.accum 1 + a.interp0.base 1) % 2 ^ 64) }
  (a, (interp_at a interp).accum lane)

/-- Function `interp_peek_lane_result` (lines 213-215). -/
def interp_peek_lane_result (a : interp_hw_array) (interp lane : Nat) : Nat :=
  ((interp_at a interp).accum lane + a.interp0.base lane) % 2 ^ 64

/-! ## The encoder of mode 5, doubled, mapped (`cgia.c`, lines 310-344)

`rgbbuf` is an index into a buffer of `uint32_t` pixels, the scans point into a byte memory
`mem` that the encoder only reads, `shared_colors` is the array of the two shared colours. -/

/-- The `switch (color_no)` of lines 320-338: the colour of a 2-bit field, or `none` for the
`default:` case, which calls `abort()`. -/
def cgia_mode5_color (shared_colors : Nat → Nat) (bg_cl fg_cl color_no : Nat) : Option Nat :=
  match color_no with
  | 0 => some (shared_colors 0 % 256)
  | 1 => some bg_cl
  | 2 => some fg_cl
  | 3 => some (shared_colors 1 % 256)
  | _ => none

/-- The loop `for (int shift = 6; shift >= 0; shift -= 2)` of lines 318-339 with `n` iterations
of fuel: every iteration writes the colour of the field `(bits >> shift) & 0b11` to two pixels.
`none` when the `default:` case is reached or the fuel runs out before the loop ends. -/
def cgia_mode5_shifts (shared_colors : Nat → Nat) (bg_cl fg_cl bits : Nat) :
    Nat → Int → (Nat → Nat) × Nat → Option ((Nat → Nat) × Nat)
  | 0, shift, s => if shift ≥ 0 then none else some s
  | n + 1, shift, s =>
    if shift ≥ 0 then
      let color_no := (bits >>> shift.toNat) &&& 0b11
      match cgia_mode5_color shared_colors bg_cl fg_cl color_no with
      | none => none
      | some v =>
        let buf := array_set s.1 s.2 v
        let buf := array_set buf (s.2 + 1) v
        cgia_mode5_shifts shared_colors bg_cl fg_cl bits n (shift - 2) (buf, s.2 + 2)
    else some s

/-- Function `cgia_encode_mode_5_doubled_mapped` (lines 310-344) with `columns` columns left:
the interpolators, the pixel buffer and `rgbbuf`; the returned pointer is the last component.
`none` when `abort()` is reached. -/
def cgia_encode_mode_5_doubled_mapped (mem : Nat → Nat) (shared_colors : Nat → Nat) :
    Nat → interp_hw_array × (Nat → Nat) × Nat → Option (interp_hw_array × (Nat → Nat) × Nat)
  | 0, s => some s
  | columns + 1, s =>
    let bg_cl_addr := interp_peek_lane_result s.1 1 1
    let bg_cl := mem bg_cl_addr % 256
    let r := interp_pop_lane_result s.1 1 0
    let fg_cl := mem r.2 % 256
    let r2 := interp_pop_lane_result r.1 0 0
    let bits := mem r2.2 % 256
    match cgia_mode5_shifts shared_colors bg_cl fg_cl bits 5 6 (s.2.1, s.2.2) with
    | none => none
    | some b => cgia_encode_mode_5_doubled_mapped mem shared_colors columns (r2.1, b.1, b.2)

/-! ## Bit operations as arithmetic -/

theorem and_mask (x n k : Nat) : x &&& ((2^n - 1) <<< k) = (x / 2^k % 2^n) * 2^k := by
  apply Nat.eq_of_testBit_eq
  intro i
  rw [← Nat.shiftLeft_eq, ← Nat.shiftRight_eq_div_pow]
  simp only [Nat.testBit_and, Nat.testBit_shiftLeft, Nat.testBit_two_pow_sub_one,
    Nat.testBit_mod_two_pow, Nat.testBit_shiftRight]
  by_cases h : k ≤ i
  · have : k + (i - k) = i := by omega
    simp [h, this, Bool.and_comm]
  · simp [h]

theorem or_eq_add (k x y : Nat) (hx : x % 2^k = 0) (hy : y < 2^k) : x ||| y = x + y := by
  have h := Nat.mul_add_lt_is_or hy (x / 2^k)
  have h2 : 2^k * (x / 2^k) = x := by
    have := Nat.div_add_mod x (2^k)
    omega
  rw [h2] at h
  exact h.symm

theorem or_add_and (a b : Nat) : (a ||| b) + (a &&& b) = a + b := by
  induction a using Nat.strong_induction_on generalizing b with
  | _ a ih =>
    by_cases ha : a = 0
    · subst ha; simp
    · have h := ih (a / 2) (by omega) (b / 2)
      rw [← Nat.or_div_two, ← Nat.and_div_two] at h
      have ho := @Nat.or_mod_two_eq_one a b
      have hn := @Nat.and_mod_two_eq_one a b
      omega

/-! ### Masks of the pin word -/

theorem and_FF (x : Nat) : x &&& 0xFF = x % 0x100 := by
  simpa using and_mask x 8 0
theorem and_FFFF (x : Nat) : x &&& 0xFFFF = x % 0x10000 := by
  simpa using and_mask x 16 0
theorem and_FF0000 (x : Nat) : x &&& 0xFF0000 = x / 0x10000 % 0x100 * 0x10000 := by
  simpa using and_mask x 8 16
theorem and_bank (x : Nat) : x &&& 0xFF00000000 = x / 0x100000000 % 0x100 * 0x100000000 := by
  simpa using and_mask x 8 32
theorem and_not_FFFF (x : Nat) : x &&& NOT64 0xFFFF = x / 0x10000 % 0x1000000000000 * 0x10000 := by
  simpa [NOT64] using and_mask x 48 16
theorem and_not_FFFFFF (x : Nat) : x &&& NOT64 0xFFFFFF = x / 0x1000000 % 0x10000000000 * 0x1000000 := by
  simpa [NOT64] using and_mask x 40 24
theorem and_not_FF0000 (x : Nat) :
    x &&& NOT64 0xFF0000 = x / 0x1000000 % 0x10000000000 * 0x1000000 + x % 0x10000 := by
  have e : NOT64 0xFF0000 = NOT64 0xFFFFFF ||| 0xFFFF := by simp [NOT64]
  rw [e, Nat.and_or_distrib_left, and_not_FFFFFF, and_FFFF, or_eq_add 16 _ _ (by omega) (by omega)]

theorem and_bit (x k : Nat) : x &&& (1 <<< k) = x / 2^k % 2 * 2^k := by
  simpa using and_mask x 1 k

theorem and_not_bit (x k : Nat) (hk : k < 64) :
    x &&& NOT64 (1 <<< k) = x / 2^(k+1) % 2^(63-k) * 2^(k+1) + x % 2^k := by
  have e : NOT64 (1 <<< k) = ((2^(63-k) - 1) <<< (k+1)) ||| ((2^k - 1) <<< 0) := by
    interval_cases k <;> simp [NOT64]
  rw [e, Nat.and_or_distrib_left, and_mask, and_mask, or_eq_add k _ _ ?_ ?_]
  · simp
  · have : 2^(k+1) = 2 * 2^k := by rw [Nat.pow_succ]; omega
    rw [this, ← Nat.mul_assoc, Nat.mul_mod_left]
  · simp only [Nat.pow_zero, Nat.div_one, Nat.mul_one]
    exact Nat.mod_lt _ (by positivity)

theorem or_bit (x k : Nat) : x ||| (1 <<< k) = x + 2^k - x / 2^k % 2 * 2^k := by
  have h := or_add_and x (1 <<< k)
  rw [and_bit] at h
  have : (1 <<< k : Nat) = 2^k := by simp [Nat.shiftLeft_eq]
  omega


theorem or3_eq_add (k1 k2 A B C : Nat) (hA : A % 2^k1 = 0) (hB : B < 2^k1)
    (hAB : (A + B) % 2^k2 = 0) (hC : C < 2^k2) : A ||| B ||| C = A + B + C := by
  rw [or_eq_add k1 A B hA hB, or_eq_add k2 (A + B) C hAB hC]

theorem and_not_FF0000_or (x v : Nat) (hv : v < 256) :
    (x &&& NOT64 0xFF0000) ||| v * 0x10000 =
      x / 0x1000000 % 0x10000000000 * 0x1000000 + v * 0x10000 + x % 0x10000 := by
  have e : NOT64 0xFF0000 = NOT64 0xFFFFFF ||| 0xFFFF := by simp [NOT64]
  rw [e, Nat.and_or_distrib_left, and_not_FFFFFF, and_FFFF, Nat.or_assoc,
    Nat.or_comm (x % 0x10000), ← Nat.or_assoc]
  exact or3_eq_add 24 16 _ _ _ (by omega) (by omega) (by omega) (by omega)

theorem and_not_bit_or (x k b : Nat) (hk : k < 64) (hb : b ≤ 1) :
    (x &&& NOT64 (1 <<< k)) ||| b * 2^k = x / 2^(k+1) % 2^(63-k) * 2^(k+1) + b * 2^k + x % 2^k := by
  have e : NOT64 (1 <<< k) = ((2^(63-k) - 1) <<< (k+1)) ||| ((2^k - 1) <<< 0) := by
    interval_cases k <;> simp [NOT64]
  have p2 : 2^(k+1) = 2 * 2^k := by rw [Nat.pow_succ]; omega
  have hpos : 0 < 2^k := by positivity
  rw [e, Nat.and_or_distrib_left, and_mask, and_mask, Nat.or_assoc,
    Nat.or_comm (x / 2^0 % 2^k * 2^0), ← Nat.or_assoc]
  simp only [Nat.pow_zero, Nat.div_one, Nat.mul_one]
  refine or3_eq_add (k+1) k _ _ _ (Nat.mul_mod_left _ _) ?_ ?_ (Nat.mod_lt _ hpos)
  · rw [p2]; interval_cases b <;> omega
  · rw [p2, ← Nat.mul_assoc, ← Nat.add_mul, Nat.mul_mod_left]

/-! ### The macros on the field view -/

theorem word_bounds (f : PinF) : f.rw.toNat ≤ 1 ∧ f.vpa.toNat ≤ 1 ∧ f.vda.toNat ≤ 1 ∧
    f.irq.toNat ≤ 1 ∧ f.nmi.toNat ≤ 1 ∧ f.rdy.toNat ≤ 1 ∧ f.res.toNat ≤ 1 ∧ f.abort.toNat ≤ 1 :=
  ⟨Bool.toNat_le _, Bool.toNat_le _, Bool.toNat_le _, Bool.toNat_le _, Bool.toNat_le _,
   Bool.toNat_le _, Bool.toNat_le _, Bool.toNat_le _⟩

theorem data_shift (y : Nat) : ((y &&& 0xFF) <<< 16) &&& 0xFF0000 = y % 256 * 0x10000 := by
  rw [and_FF0000, and_FF, Nat.shiftLeft_eq]; omega

theorem SA_word (f : PinF) (x : Nat) : _SA f.word x = ({ f with a := x } : PinF).word := by
  have b := word_bounds f
  rw [_SA, and_not_FFFF, and_FFFF, or_eq_add 16 _ _ (by omega) (by omega)]
  simp only [PinF.word]
  omega

theorem SAD_word (f : PinF) (x y : Nat) :
    _SAD f.word x y = ({ f with a := x, d := y } : PinF).word := by
  have b := word_bounds f
  rw [_SAD, and_not_FFFFFF, and_FFFF, data_shift,
    or3_eq_add 24 16 _ _ _ (by omega) (by omega) (by omega) (by omega)]
  simp only [PinF.word]
  omega

theorem SD_word (f : PinF) (y : Nat) : _SD f.word y = ({ f with d := y } : PinF).word := by
  have b := word_bounds f
  rw [_SD, data_shift, and_not_FF0000_or _ _ (by omega)]
  simp only [PinF.word]
  omega

theorem SET_DATA_word (f : PinF) (y : Nat) :
    W65816_SET_DATA f.word y = ({ f with d := y } : PinF).word := by
  have b := word_bounds f
  have h : (y <<< 16) &&& 0xFF0000 = y % 256 * 0x10000 := by
    rw [and_FF0000, Nat.shiftLeft_eq]; omega
  rw [W65816_SET_DATA, h, and_not_FF0000_or _ _ (by omega)]
  simp only [PinF.word]
  omega

theorem ON_bit_word (f : PinF) (k : Nat) :
    f.word ||| (1 <<< k) = f.word + 2^k - f.word / 2^k % 2 * 2^k := or_bit _ _

theorem VPA_word (f : PinF) : _VPA f.word = ({ f with vpa := true } : PinF).word := by
  have b := word_bounds f
  have h := or_bit f.word 25
  rw [_VPA, _ON, W65816_VPA, h]
  simp only [PinF.word, Bool.toNat_true]
  omega

theorem VDA_word (f : PinF) : _VDA f.word = ({ f with vda := true } : PinF).word := by
  have b := word_bounds f
  have h := or_bit f.word 26
  rw [_VDA, _ON, W65816_VDA, h]
  simp only [PinF.word, Bool.toNat_true]
  omega

theorem RD_word (f : PinF) : _RD f.word = ({ f with rw := true } : PinF).word := by
  have b := word_bounds f
  have h := or_bit f.word 24
  rw [_RD, _ON, W65816_RW, h]
  simp only [PinF.word, Bool.toNat_true]
  omega

theorem NMI_raise_word (f : PinF) : f.word ||| 0x10000000 = ({ f with nmi := true } : PinF).word := by
  have b := word_bounds f
  have h := or_bit f.word 28
  simp only [Nat.reduceShiftLeft] at h
  rw [h]
  simp only [PinF.word, Bool.toNat_true]
  omega

theorem WR_word (f : PinF) : _WR f.word = ({ f with rw := false } : PinF).word := by
  have b := word_bounds f
  have h := and_not_bit f.word 24 (by norm_num)
  rw [_WR, _OFF, W65816_RW, h]
  simp only [PinF.word, Bool.toNat_false]
  omega

theorem RES_clear_word (f : PinF) :
    f.word &&& NOT64 0x40000000 = ({ f with res := false } : PinF).word := by
  have b := word_bounds f
  have h := and_not_bit f.word 30 (by norm_num)
  simp only [Nat.reduceShiftLeft] at h
  rw [h]
  simp only [PinF.word, Bool.toNat_false]
  omega

theorem OFF_sync_word (f : PinF) :
    _OFF f.word 0x6000000 = ({ f with vpa := false, vda := false } : PinF).word := by
  have b := word_bounds f
  have e : NOT64 0x6000000 = NOT64 (1 <<< 25) &&& NOT64 (1 <<< 26) := by decide
  have h1 := and_not_bit f.word 25 (by norm_num)
  rw [_OFF, e, ← Nat.and_assoc, h1, and_not_bit _ 26 (by norm_num)]
  simp only [PinF.word, Bool.toNat_false]
  omega

theorem FETCH_word (c : w65816_t) (f : PinF) :
    _FETCH c f.word = ({ f with a := c.PC, vpa := true, vda := true } : PinF).word := by
  have e : _FETCH c f.word = _VDA (_VPA (_SA f.word c.PC)) := by
    simp only [_FETCH, _VDA, _VPA, _ON, Nat.or_assoc]
  rw [e, SA_word, VPA_word, VDA_word]

theorem GD_word (f : PinF) : _GD f.word = f.d % 256 := by
  have b := word_bounds f
  rw [_GD, and_FF0000, Nat.shiftRight_eq_div_pow]
  simp only [PinF.word]
  omega

theorem GET_DATA_word (f : PinF) : W65816_GET_DATA f.word = f.d % 256 := by
  have b := word_bounds f
  rw [W65816_GET_DATA, and_FF0000, Nat.shiftRight_eq_div_pow]
  simp only [PinF.word]
  omega

theorem GET_ADDR_word (f : PinF) :
    W65816_GET_ADDR f.word = f.a % 0x10000 + f.bank % 0x100 * 0x10000 := by
  have b := word_bounds f
  rw [W65816_GET_ADDR, and_FFFF, and_FF0000, Nat.shiftRight_eq_div_pow, Nat.or_comm,
    or_eq_add 16 _ _ (by omega) (by omega)]
  simp only [PinF.word]
  omega

theorem test_RW_word (f : PinF) : f.word &&& 0x1000000 = f.rw.toNat * 0x1000000 := by
  have b := word_bounds f
  have h := and_bit f.word 24
  simp only [Nat.reduceShiftLeft] at h
  rw [h]; simp only [PinF.word]; omega

theorem test_VPA_word (f : PinF) : f.word &&& 0x2000000 = f.vpa.toNat * 0x2000000 := by
  have b := word_bounds f
  have h := and_bit f.word 25
  simp only [Nat.reduceShiftLeft] at h
  rw [h]; simp only [PinF.word]; omega

theorem test_VDA_word (f : PinF) : f.word &&& 0x4000000 = f.vda.toNat * 0x4000000 := by
  have b := word_bounds f
  have h := and_bit f.word 26
  simp only [Nat.reduceShiftLeft] at h
  rw [h]; simp only [PinF.word]; omega

theorem test_IRQ_word (f : PinF) : f.word &&& 0x8000000 = f.irq.toNat * 0x8000000 := by
  have b := word_bounds f
  have h := and_bit f.word 27
  simp only [Nat.reduceShiftLeft] at h
  rw [h]; simp only [PinF.word]; omega

theorem test_RES_word (f : PinF) : f.word &&& 0x40000000 = f.res.toNat * 0x40000000 := by
  have b := word_bounds f
  have h := and_bit f.word 30
  simp only [Nat.reduceShiftLeft] at h
  rw [h]; simp only [PinF.word]; omega

theorem test_any_word (f : PinF) :
    f.word &&& 0x7E000000 = f.vpa.toNat * 0x2000000 + f.vda.toNat * 0x4000000 +
      f.irq.toNat * 0x8000000 + f.nmi.toNat * 0x10000000 + f.rdy.toNat * 0x20000000 +
      f.res.toNat * 0x40000000 := by
  have b := word_bounds f
  have h := and_mask f.word 6 25
  simp only [Nat.reducePow, Nat.reduceSub, Nat.reduceShiftLeft] at h
  rw [h]; simp only [PinF.word]; omega

theorem test_stall_word (f : PinF) :
    f.word &&& 0x21000000 = f.rw.toNat * 0x1000000 + f.rdy.toNat * 0x20000000 := by
  have b := word_bounds f
  have e : (0x21000000 : Nat) = (1 <<< 29) ||| (1 <<< 24) := by decide
  rw [e, Nat.and_or_distrib_left, and_bit, and_bit, or_eq_add 29 _ _ (by omega) (by omega)]
  simp only [PinF.word]; omega

theorem testBit_NMI_word (f : PinF) : f.word.testBit 28 = f.nmi := by
  have b := word_bounds f
  rw [Nat.testBit_to_div_mod]
  have h : f.word / 2^28 % 2 = f.nmi.toNat := by
    simp only [PinF.word]; omega
  rw [h]
  cases f.nmi <;> simp

theorem test_NMI_edge (p q : Nat) :
    (p &&& (p ^^^ q)) &&& 0x10000000 = (p.testBit 28 && !q.testBit 28).toNat * 0x10000000 := by
  have h := and_bit (p &&& (p ^^^ q)) 28
  simp only [Nat.reduceShiftLeft] at h
  rw [h, ← Nat.toNat_testBit, Nat.testBit_and, Nat.testBit_xor]
  cases p.testBit 28 <;> cases q.testBit 28 <;> simp

/-! ## The tick function on the field view -/

theorem tick_detect_IR (c : w65816_t) (pins : Nat) : (tick_detect c pins).IR = c.IR := by
  simp only [tick_detect]
  split_ifs <;> rfl

theorem tick_detect_quiet (c : w65816_t) (f : PinF) (hnmi : f.nmi = false) (hirq : f.irq = false) :
    tick_detect c f.word = c := by
  unfold tick_detect
  simp only [W65816_NMI, W65816_IRQ, W65816_IF, Nat.reduceShiftLeft, test_NMI_edge, test_IRQ_word,
    testBit_NMI_word, hnmi, hirq, Bool.false_and, Bool.toNat_false, Nat.zero_mul, ne_eq,
    not_true_eq_false, false_and, ite_false]

theorem tick_detect_nmi (c : w65816_t) (f : PinF) (hnmi : f.nmi = true) (hirq : f.irq = false) :
    tick_detect c f.word =
      { c with nmi_pip := if c.PINS.testBit 28 = true then c.nmi_pip else (c.nmi_pip ||| 0x100) % 65536 } := by
  unfold tick_detect
  simp only [W65816_NMI, W65816_IRQ, W65816_IF, Nat.reduceShiftLeft, test_NMI_edge, test_IRQ_word,
    testBit_NMI_word, hnmi, hirq, Bool.true_and, Bool.toNat_false, Nat.zero_mul, ne_eq,
    not_true_eq_false, false_and, ite_false]
  cases h : c.PINS.testBit 28 <;> simp

theorem tick_decode_word (c : w65816_t) (f : PinF) :
    tick_decode c f.word =
      w65816_decode c.IR { c with IR := (c.IR + 1) % 65536 } ({ f with rw := true } : PinF).word := by
  unfold tick_decode
  simp only [RD_word]

theorem tick_plain (c : w65816_t) (f : PinF) (hrdy : f.rdy = false)
    (hs : (f.vpa && f.vda) = false) :
    w65816_tick c f.word =
      (tick_decode (tick_detect c f.word) ({ f with vpa := false, vda := false } : PinF).word).map
        (fun r => tick_finish r.1 r.2) := by
  unfold w65816_tick
  simp only [W65816_VPA, W65816_VDA, W65816_IRQ, W65816_NMI, W65816_RDY, W65816_RES, W65816_RW,
    Nat.reduceShiftLeft, Nat.reduceOr, test_any_word, test_stall_word, test_VPA_word, test_VDA_word]
  have hst : ¬ (f.rw.toNat * 16777216 + f.rdy.toNat * 536870912 = 553648128) := by
    have := Bool.toNat_le f.rw; rw [hrdy]; simp only [Bool.toNat_false]; omega
  have hsy : ¬ (f.vpa.toNat * 33554432 ≠ 0 ∧ f.vda.toNat * 67108864 ≠ 0) := by
    cases hv : f.vpa <;> cases hd : f.vda <;> simp_all
  simp only [hst, hsy, ite_false, OFF_sync_word]
  split
  · rfl
  · rename_i h
    have h0 : f.vpa = false ∧ f.vda = false ∧ f.irq = false ∧ f.nmi = false ∧ f.res = false := by
      cases hv : f.vpa <;> cases hd : f.vda <;> cases hi : f.irq <;> cases hn : f.nmi <;>
        cases hr : f.res <;> simp_all
    obtain ⟨h1, h2, h3, h4, h5⟩ := h0
    rw [tick_detect_quiet c f h4 h3]
    have : ({ f with vpa := false, vda := false } : PinF) = f := by
      cases f; simp_all
    rw [this]

theorem tick_sync_word (c : w65816_t) (f : PinF) :
    tick_sync c f.word =
      if sync_flags c f.res ≠ 0 then
        ({ c with IR := 0, brk_flags := sync_flags c f.res, irq_pip := c.irq_pip &&& 0x3FF,
                  nmi_pip := c.nmi_pip &&& 0x3FF, P := (c.P &&& NOT32 W65816_BF) % 256 },
         ({ f with res := false } : PinF).word)
      else
        ({ c with IR := ((f.d % 256) <<< 3) % 65536, brk_flags := sync_flags c f.res,
                  irq_pip := c.irq_pip &&& 0x3FF, nmi_pip := c.nmi_pip &&& 0x3FF,
                  PC := (c.PC + 1) % 65536 }, f.word) := by
  have hres : (0 ≠ f.res.toNat * 1073741824) = (f.res = true) := by
    cases f.res <;> simp
  simp only [tick_sync, tick_sync_latch, tick_sync_force, sync_flags, W65816_RES, Nat.reduceShiftLeft, test_RES_word, GD_word,
    RES_clear_word, hres]
  by_cases h1 : 0 ≠ (c.irq_pip &&& 0x400) <;> by_cases h2 : 0 ≠ (c.nmi_pip &&& 0xFC00) <;>
    by_cases h3 : f.res = true <;> simp only [h1, h2, h3, ite_true, ite_false] <;>
    split_ifs <;> rfl

theorem tick_at_sync (c : w65816_t) (f : PinF) (hrdy : f.rdy = false) (hvpa : f.vpa = true)
    (hvda : f.vda = true) :
    w65816_tick c f.word =
      (tick_decode (tick_sync (tick_detect c f.word) f.word).1
        (_OFF (tick_sync (tick_detect c f.word) f.word).2 (W65816_VPA ||| W65816_VDA))).map
        (fun r => tick_finish r.1 r.2) := by
  unfold w65816_tick
  have hst : ¬ (f.rw.toNat * 16777216 + f.rdy.toNat * 536870912 = 553648128) := by
    have := Bool.toNat_le f.rw; rw [hrdy]; simp only [Bool.toNat_false]; omega
  have hany : f.vpa.toNat * 33554432 + f.vda.toNat * 67108864 + f.irq.toNat * 134217728 +
      f.nmi.toNat * 268435456 + f.rdy.toNat * 536870912 + f.res.toNat * 1073741824 ≠ 0 := by
    rw [hvpa]; simp only [Bool.toNat_true]; omega
  have hsy : (f.vpa.toNat * 33554432 ≠ 0 ∧ f.vda.toNat * 67108864 ≠ 0) := by
    rw [hvpa, hvda]; simp
  simp only [W65816_VPA, W65816_VDA, W65816_IRQ, W65816_NMI, W65816_RDY, W65816_RES, W65816_RW,
    Nat.reduceShiftLeft, Nat.reduceOr, test_any_word, test_stall_word, test_VPA_word, test_VDA_word,
    hst, hany, hsy, ite_false, ite_true, and_self, ne_eq, not_false_eq_true]

/-! ## The bottom of the tick -/

theorem tick_finish_snd (c : w65816_t) (p : Nat) : (tick_finish c p).2 = p := rfl

theorem tick_finish_pair (c : w65816_t) (p : Nat) :
    tick_finish c p = ((tick_finish c p).1, p) := by
  exact id rfl

theorem tick_finish_IR (c : w65816_t) (p : Nat) : (tick_finish c p).1.IR = c.IR := by
  simp only [tick_finish]; split_ifs <;> rfl
theorem tick_finish_PC (c : w65816_t) (p : Nat) : (tick_finish c p).1.PC = c.PC := by
  simp only [tick_finish]; split_ifs <;> rfl
theorem tick_finish_AD (c : w65816_t) (p : Nat) : (tick_finish c p).1.AD = c.AD := by
  simp only [tick_finish]; split_ifs <;> rfl
theorem tick_finish_brk (c : w65816_t) (p : Nat) :
    (tick_finish c p).1.brk_flags = c.brk_flags := by
  simp only [tick_finish]; split_ifs <;> rfl
theorem tick_finish_PINS (c : w65816_t) (p : Nat) : (tick_finish c p).1.PINS = p := by
  simp only [tick_finish]; split_ifs <;> rfl
theorem tick_finish_emulation (c : w65816_t) (p : Nat) :
    (tick_finish c p).1.emulation = c.emulation := by
  simp only [tick_finish]; split_ifs <;> rfl
theorem tick_finish_irq_pip (c : w65816_t) (p : Nat) :
    (tick_finish c p).1.irq_pip = (c.irq_pip <<< 1) % 65536 := by
  simp only [tick_finish]; split_ifs <;> rfl
theorem tick_finish_nmi_pip (c : w65816_t) (p : Nat) :
    (tick_finish c p).1.nmi_pip = (c.nmi_pip <<< 1) % 65536 := by
  simp only [tick_finish]; split_ifs <;> rfl
theorem tick_finish_S (c : w65816_t) (p : Nat) :
    (tick_finish c p).1.S = if c.emulation ≠ 0 then 0x0100 ||| (c.S &&& 0xFF) else c.S := by
  simp only [tick_finish]; split_ifs <;> rfl
theorem tick_finish_P (c : w65816_t) (p : Nat) :
    (tick_finish c p).1.P = if c.emulation ≠ 0 then (c.P ||| 0x20) % 256 else c.P := by
  simp only [tick_finish, W65816_UF, Nat.reduceShiftLeft]; split_ifs <;> rfl

/-! ## Decoder cases of BRK and NOP on the field view -/

theorem decode_brk (k : Nat) (hk : k < 8) (c : w65816_t) (p : Nat) :
    w65816_decode k c p = op_00 k c p := by
  interval_cases k <;> rfl

theorem decode_nop0 (c : w65816_t) (p : Nat) : w65816_decode 0x750 c p = op_EA 0 c p := by
  exact id rfl

theorem decode_nop1 (c : w65816_t) (p : Nat) : w65816_decode 0x751 c p = op_EA 1 c p := by
  exact id rfl

theorem brk0_word (c : w65816_t) (f : PinF) (h : c.brk_flags ≠ 0) :
    op_00 0 c f.word = some (c, ({ f with a := c.PC } : PinF).word) := by
  have h' : (0 = c.brk_flags) = False := eq_false (fun e => h e.symm)
  simp only [op_00, h', ite_false, SA_word]

theorem brk1_word (c : w65816_t) (f : PinF) :
    op_00 1 c f.word =
      some ({ c with PC := if c.brk_flags &&& 3 = 0 then (c.PC + 1) % 65536 else c.PC,
                     S := (c.S &&& 0xFF00) ||| ((c.S &&& 0xFF) + 255) &&& 0xFF, PBR := 0 },
        ({ f with vda := true, a := 0x0100 ||| (c.S &&& 0xFF),
                  d := (if c.brk_flags &&& 3 = 0 then (c.PC + 1) % 65536 else c.PC) >>> 8,
                  rw := if c.brk_flags &&& 4 = 0 then false else f.rw } : PinF).word) := by
  by_cases hi : c.brk_flags &&& 3 = 0 <;> by_cases hr : c.brk_flags &&& 4 = 0 <;>
    simp only [op_00, W65816_BRK_IRQ, W65816_BRK_NMI, W65816_BRK_RESET, Nat.reduceShiftLeft,
      Nat.reduceOr, hi, hr, eq_comm (a := 0), ite_true, ite_false, VDA_word, SAD_word, WR_word, _S, set_S]

theorem brk2_word (c : w65816_t) (f : PinF) :
    op_00 2 c f.word =
      some ({ c with S := (c.S &&& 0xFF00) ||| ((c.S &&& 0xFF) + 255) &&& 0xFF },
        ({ f with vda := true, a := 0x0100 ||| (c.S &&& 0xFF), d := c.PC,
                  rw := if c.brk_flags &&& 4 = 0 then false else f.rw } : PinF).word) := by
  by_cases hr : c.brk_flags &&& 4 = 0 <;>
    simp only [op_00, W65816_BRK_RESET, Nat.reduceShiftLeft,
      hr, eq_comm (a := 0), ite_true, ite_false, VDA_word, SAD_word, WR_word, _S, set_S]

theorem brk3_word (c : w65816_t) (f : PinF) :
    op_00 3 c f.word =
      some ({ c with S := (c.S &&& 0xFF00) ||| ((c.S &&& 0xFF) + 255) &&& 0xFF,
                     AD := if c.brk_flags &&& 4 ≠ 0 then 0xFFFC
                           else if c.brk_flags &&& 2 ≠ 0 then 0xFFFA else 0xFFFE },
        ({ f with vda := true, a := 0x0100 ||| (c.S &&& 0xFF), d := c.P ||| 0x20,
                  rw := if c.brk_flags &&& 4 ≠ 0 then f.rw else false } : PinF).word) := by
  by_cases hr : c.brk_flags &&& 4 = 0 <;> by_cases hn : c.brk_flags &&& 2 = 0 <;>
    simp only [op_00, W65816_BRK_RESET, W65816_BRK_NMI, W65816_UF, Nat.reduceShiftLeft,
      hr, hn, ne_eq, not_true_eq_false, not_false_eq_true, ite_true, ite_false, VDA_word, SAD_word,
      WR_word, _S, set_S]

theorem brk4_word (c : w65816_t) (f : PinF) :
    op_00 4 c f.word =
      some ({ c with AD := (c.AD + 1) % 65536, P := ((c.P ||| 0x14) % 256) &&& 0x08, brk_flags := 0 },
        ({ f with vda := true, a := c.AD } : PinF).word) := by
  simp only [op_00, W65816_IF, W65816_BF, W65816_DF, Nat.reduceShiftLeft, Nat.reduceOr, VDA_word,
    SA_word]

theorem brk5_word (c : w65816_t) (f : PinF) :
    op_00 5 c f.word =
      some ({ c with AD := f.d % 256 }, ({ f with vda := true, a := c.AD } : PinF).word) := by
  simp only [op_00, VDA_word, SA_word, GD_word]

theorem brk6_word (c : w65816_t) (f : PinF) :
    op_00 6 c f.word =
      some ({ c with PC := (((f.d % 256) <<< 8) ||| c.AD) % 65536 },
        ({ f with a := (((f.d % 256) <<< 8) ||| c.AD) % 65536, vpa := true, vda := true } : PinF).word) := by
  simp only [op_00, FETCH_word, GD_word]

theorem nop0_word (c : w65816_t) (f : PinF) :
    op_EA 0 c f.word = some (c, ({ f with a := c.PC } : PinF).word) := by
  simp only [op_EA, SA_word]

theorem nop1_word (c : w65816_t) (f : PinF) :
    op_EA 1 c f.word = some (c, ({ f with a := c.PC, vpa := true, vda := true } : PinF).word) := by
  simp only [op_EA, FETCH_word]

/-! ## Ticks of the host loop on the field view -/

theorem tick_quiet (c : w65816_t) (f : PinF) (hrdy : f.rdy = false) (hirq : f.irq = false)
    (hnmi : f.nmi = false) (hs : (f.vpa && f.vda) = false) :
    w65816_tick c f.word =
      (w65816_decode c.IR { c with IR := (c.IR + 1) % 65536 }
        ({ f with rw := true, vpa := false, vda := false } : PinF).word).map
        (fun r => tick_finish r.1 r.2) := by
  rw [tick_plain c f hrdy hs, tick_detect_quiet c f hnmi hirq, tick_decode_word]

theorem tick_sync_quiet (c : w65816_t) (f : PinF) (hrdy : f.rdy = false) (hirq : f.irq = false)
    (hnmi : f.nmi = false) (hvpa : f.vpa = true) (hvda : f.vda = true) :
    w65816_tick c f.word =
      if sync_flags c f.res ≠ 0 then
        (w65816_decode 0
          { c with IR := 1, brk_flags := sync_flags c f.res, irq_pip := c.irq_pip &&& 0x3FF,
                   nmi_pip := c.nmi_pip &&& 0x3FF, P := (c.P &&& NOT32 W65816_BF) % 256 }
          ({ f with rw := true, vpa := false, vda := false, res := false } : PinF).word).map
          (fun r => tick_finish r.1 r.2)
      else
        (w65816_decode (((f.d % 256) <<< 3) % 65536)
          { c with IR := ((((f.d % 256) <<< 3) % 65536) + 1) % 65536, brk_flags := sync_flags c f.res,
                   irq_pip := c.irq_pip &&& 0x3FF, nmi_pip := c.nmi_pip &&& 0x3FF,
                   PC := (c.PC + 1) % 65536 }
          ({ f with rw := true, vpa := false, vda := false } : PinF).word).map
          (fun r => tick_finish r.1 r.2) := by
  rw [tick_at_sync c f hrdy hvpa hvda, tick_detect_quiet c f hnmi hirq, tick_sync_word]
  split_ifs with h
  · simp only [W65816_VPA, W65816_VDA, Nat.reduceShiftLeft, Nat.reduceOr, OFF_sync_word,
      tick_decode_word, Nat.zero_add, Nat.reduceMod]
  · simp only [W65816_VPA, W65816_VDA, Nat.reduceShiftLeft, Nat.reduceOr, OFF_sync_word,
      tick_decode_word]

theorem host_step_read (c : w65816_t) (p : Nat) (mem : Mem) (c1 : w65816_t) (f1 : PinF)
    (h : w65816_tick c p = some (c1, f1.word)) (hrw : f1.rw = true) :
    host_step { cpu := c, pins := p, mem := mem } =
      some { cpu := c1,
             pins := ({ f1 with d := mem (f1.a % 0x10000 + f1.bank % 0x100 * 0x10000) % 256 } : PinF).word,
             mem := mem } := by
  simp only [host_step, h, host_access, W65816_RW, Nat.reduceShiftLeft, test_RW_word, hrw,
    Bool.toNat_true, Nat.one_mul, ne_eq, Nat.reduceEqDiff, not_false_eq_true, ite_true,
    GET_ADDR_word, SET_DATA_word]

theorem host_step_write (c : w65816_t) (p : Nat) (mem : Mem) (c1 : w65816_t) (f1 : PinF)
    (h : w65816_tick c p = some (c1, f1.word)) (hrw : f1.rw = false) :
    host_step { cpu := c, pins := p, mem := mem } =
      some { cpu := c1, pins := f1.word,
             mem := fun a => if a = f1.a % 0x10000 + f1.bank % 0x100 * 0x10000 then f1.d % 256 else mem a } := by
  simp only [host_step, h, host_access, W65816_RW, Nat.reduceShiftLeft, test_RW_word, hrw,
    Bool.toNat_false, Nat.zero_mul, ne_eq, not_true_eq_false, ite_false,
    GET_ADDR_word, GET_DATA_word]

/-! ## The reset sequence -/

theorem init_sys (b : Bool) (mem : Mem) :
    host_init b mem =
      { cpu := (w65816_init b).1,
        pins := PinF.word ⟨0, 0, true, true, true, false, false, false, true, false, 0, 0⟩,
        mem := mem } := by
  cases b <;> simp [host_init, w65816_init, PinF.word]

theorem init_fields (b : Bool) :
    (w65816_init b).1.IR = 0 ∧ (w65816_init b).1.PC = 0 ∧ (w65816_init b).1.brk_flags = 0 ∧
    (w65816_init b).1.irq_pip = 0 ∧ (w65816_init b).1.nmi_pip = 0 := by
  cases b <;> simp [w65816_init]

theorem and_4_4 : (4 : Nat) &&& 4 = 4 := by decide
theorem and_4_3 : (4 : Nat) &&& 3 = 0 := by decide
theorem and_2_4 : (2 : Nat) &&& 4 = 0 := by decide
theorem and_2_3 : (2 : Nat) &&& 3 = 2 := by decide
theorem and_2_2 : (2 : Nat) &&& 2 = 2 := by decide

/-- Sub-cycle 0 of the reset sequence: a sync tick with RES high and no interrupt pending. -/
theorem reset_tick0 (c : w65816_t) (a d bank : Nat) (rw : Bool) (hb : c.brk_flags = 0)
    (hi : c.irq_pip = 0) (hn : c.nmi_pip = 0) :
    ∃ c1, w65816_tick c (PinF.word ⟨a, d, rw, true, true, false, false, false, true, false, bank, 0⟩) =
        some (c1, (qpins c.PC d true false false bank).word) ∧
      c1.IR = 1 ∧ c1.brk_flags = 4 ∧ c1.PC = c.PC := by
  have hf : sync_flags c true = 4 := by
    simp [sync_flags, hb, hi, hn]
  rw [tick_sync_quiet _ _ rfl rfl rfl rfl rfl]
  simp only [hf, ne_eq, Nat.reduceEqDiff, not_false_eq_true, ite_true]
  rw [decode_brk 0 (by norm_num), brk0_word _ _ (by simp), Option.map_some', tick_finish_pair]
  exact ⟨_, rfl, tick_finish_IR _ _, tick_finish_brk _ _, tick_finish_PC _ _⟩

/-- Sub-cycle 1 of the reset sequence. -/
theorem reset_tick1 (c : w65816_t) (a d bank : Nat) (rw vpa vda : Bool)
    (hs : (vpa && vda) = false) (hIR : c.IR = 1) (hb : c.brk_flags = 4) :
    ∃ c1, w65816_tick c (qpins a d rw vpa vda bank).word =
        some (c1, (qpins (0x0100 ||| (c.S &&& 0xFF)) (((c.PC + 1) % 65536) >>> 8) true false true bank).word) ∧
      c1.IR = 2 ∧ c1.brk_flags = 4 := by
  rw [tick_quiet _ _ rfl rfl rfl hs, hIR, decode_brk 1 (by norm_num), brk1_word, Option.map_some',
    tick_finish_pair]
  simp only [hb, and_4_4, and_4_3, ite_true, ite_false, Nat.reduceEqDiff]
  exact ⟨_, rfl, tick_finish_IR _ _, tick_finish_brk _ _⟩

/-- Sub-cycle 2 of the reset sequence. -/
theorem reset_tick2 (c : w65816_t) (a d bank : Nat) (rw vpa vda : Bool)
    (hs : (vpa && vda) = false) (hIR : c.IR = 2) (hb : c.brk_flags = 4) :
    ∃ c1, w65816_tick c (qpins a d rw vpa vda bank).word =
        some (c1, (qpins (0x0100 ||| (c.S &&& 0xFF)) c.PC true false true bank).word) ∧
      c1.IR = 3 ∧ c1.brk_flags = 4 := by
  rw [tick_quiet _ _ rfl rfl rfl hs, hIR, decode_brk 2 (by norm_num), brk2_word, Option.map_some',
    tick_finish_pair]
  simp only [hb, and_4_4, ite_true, ite_false, Nat.reduceEqDiff]
  exact ⟨_, rfl, tick_finish_IR _ _, tick_finish_brk _ _⟩

/-- Sub-cycle 3 of the reset sequence: the reset vector address is loaded into AD. -/
theorem reset_tick3 (c : w65816_t) (a d bank : Nat) (rw vpa vda : Bool)
    (hs : (vpa && vda) = false) (hIR : c.IR = 3) (hb : c.brk_flags = 4) :
    ∃ c1, w65816_tick c (qpins a d rw vpa vda bank).word =
        some (c1, (qpins (0x0100 ||| (c.S &&& 0xFF)) (c.P ||| 0x20) true false true bank).word) ∧
      c1.IR = 4 ∧ c1.AD = 0xFFFC := by
  rw [tick_quiet _ _ rfl rfl rfl hs, hIR, decode_brk 3 (by norm_num), brk3_word, Option.map_some',
    tick_finish_pair]
  simp only [hb, and_4_4, ne_eq, Nat.reduceEqDiff, not_false_eq_true, ite_true, ite_false]
  exact ⟨_, rfl, tick_finish_IR _ _, tick_finish_AD _ _⟩

/-- Sub-cycle 4 of BRK: the low vector byte is addressed, I and D are updated, `brk_flags` is
cleared. -/
theorem brk_tick4 (c : w65816_t) (a d bank : Nat) (rw vpa vda : Bool)
    (hs : (vpa && vda) = false) (hIR : c.IR = 4) :
    ∃ c1, w65816_tick c (qpins a d rw vpa vda bank).word =
        some (c1, (qpins c.AD d true false true bank).word) ∧
      c1.IR = 5 ∧ c1.AD = (c.AD + 1) % 65536 ∧ c1.brk_flags = 0 := by
  rw [tick_quiet _ _ rfl rfl rfl hs, hIR, decode_brk 4 (by norm_num), brk4_word, Option.map_some',
    tick_finish_pair]
  exact ⟨_, rfl, tick_finish_IR _ _, tick_finish_AD _ _, tick_finish_brk _ _⟩

/-- Sub-cycle 5 of BRK: the high vector byte is addressed, the low byte is latched in AD. -/
theorem brk_tick5 (c : w65816_t) (a d bank : Nat) (rw vpa vda : Bool)
    (hs : (vpa && vda) = false) (hIR : c.IR = 5) :
    ∃ c1, w65816_tick c (qpins a d rw vpa vda bank).word =
        some (c1, (qpins c.AD d true false true bank).word) ∧
      c1.IR = 6 ∧ c1.AD = d % 256 ∧ c1.brk_flags = c.brk_flags := by
  rw [tick_quiet _ _ rfl rfl rfl hs, hIR, decode_brk 5 (by norm_num), brk5_word, Option.map_some',
    tick_finish_pair]
  exact ⟨_, rfl, tick_finish_IR _ _, tick_finish_AD _ _, tick_finish_brk _ _⟩

/-- Sub-cycle 6 of BRK: PC is loaded from the vector and the next opcode fetch is issued. -/
theorem brk_tick6 (c : w65816_t) (a d bank : Nat) (rw vpa vda : Bool)
    (hs : (vpa && vda) = false) (hIR : c.IR = 6) :
    ∃ c1, w65816_tick c (qpins a d rw vpa vda bank).word =
        some (c1, (qpins ((((d % 256) <<< 8) ||| c.AD) % 65536) d true true true bank).word) ∧
      c1.IR = 7 ∧ c1.PC = (((d % 256) <<< 8) ||| c.AD) % 65536 ∧ c1.brk_flags = c.brk_flags := by
  rw [tick_quiet _ _ rfl rfl rfl hs, hIR, decode_brk 6 (by norm_num), brk6_word, Option.map_some',
    tick_finish_pair]
  exact ⟨_, rfl, tick_finish_IR _ _, tick_finish_PC _ _, tick_finish_brk _ _⟩

/-- A read access of the host loop on quiet pins. -/
theorem host_step_qread (c : w65816_t) (p : Nat) (mem : Mem) (c1 : w65816_t) (a d bank : Nat)
    (vpa vda : Bool) (h : w65816_tick c p = some (c1, (qpins a d true vpa vda bank).word)) :
    host_step { cpu := c, pins := p, mem := mem } =
      some { cpu := c1,
             pins := (qpins a (mem (a % 0x10000 + bank % 0x100 * 0x10000) % 256) true vpa vda bank).word,
             mem := mem } := by
  rw [host_step_read c p mem c1 _ h rfl]
  rfl

theorem GA_word (f : PinF) : _GA f.word = f.a % 0x10000 := by
  have b := word_bounds f
  rw [_GA, and_FFFF]
  simp only [PinF.word]
  omega

theorem host_run_succ (n : Nat) (s : Sys) :
    host_run (n + 1) s = (host_run n s).bind host_step := by
  induction n generalizing s with
  | zero =>
    simp only [host_run, Option.some_bind]
    cases host_step s <;> rfl
  | succ n ih =>
    rw [host_run]
    cases h : host_step s with
    | none => simp [host_run, h]
    | some s1 =>
      simp only []
      rw [ih s1]
      conv => rhs; rw [host_run, h]

theorem host_run_step (n : Nat) (s s1 s2 : Sys) (h : host_run n s = some s1)
    (h2 : host_step s1 = some s2) : host_run (n + 1) s = some s2 := by
  rw [host_run_succ, h, Option.some_bind, h2]

theorem host_tick_of (n : Nat) (s s1 : Sys) (h : host_run n s = some s1) :
    host_tick n s = w65816_tick s1.cpu s1.pins := by
  simp only [host_tick, h]

theorem sync_qpins (a d bank : Nat) (rw vpa vda : Bool) :
    ((qpins a d rw vpa vda bank).word &&& W65816_VPA ≠ 0 ∧
      (qpins a d rw vpa vda bank).word &&& W65816_VDA ≠ 0) ↔ (vpa = true ∧ vda = true) := by
  simp only [W65816_VPA, W65816_VDA, Nat.reduceShiftLeft, test_VPA_word, test_VDA_word, qpins]
  cases vpa <;> cases vda <;> simp

theorem vec_word (lo hi : Nat) :
    ((hi % 256 % 256) <<< 8 ||| lo % 256 % 256) % 65536 = (lo % 256) ||| ((hi % 256) <<< 8) := by
  have h1 : lo % 256 < 256 := Nat.mod_lt _ (by norm_num)
  have h2 : hi % 256 < 256 := Nat.mod_lt _ (by norm_num)
  rw [Nat.mod_mod, Nat.mod_mod, Nat.lor_comm (lo % 256), Nat.shiftLeft_eq,
    or_eq_add 8 _ _ (by norm_num) (by norm_num; exact h1)]
  omega

/-- C1: from `w65816_init` under the host loop, for every memory content, none of the first six
ticks returns a pin word with VPA and VDA both set, and the seventh tick returns a pin word
with VPA and VDA both set whose 16-bit address, and the PC of the CPU, is the reset vector
`mem[0xFFFC] | (mem[0xFFFD] << 8)`. -/
theorem reset_takes_seven_ticks (bcd_disabled : Bool) (mem : Mem) :
    (∀ k, k < 6 → ∃ r, host_tick k (host_init bcd_disabled mem) = some r ∧
        ¬ (r.2 &&& W65816_VPA ≠ 0 ∧ r.2 &&& W65816_VDA ≠ 0)) ∧
    ∃ r, host_tick 6 (host_init bcd_disabled mem) = some r ∧
      r.2 &&& W65816_VPA ≠ 0 ∧ r.2 &&& W65816_VDA ≠ 0 ∧
      _GA r.2 = (mem 0xFFFC % 256) ||| ((mem 0xFFFD % 256) <<< 8) ∧
      r.1.PC = (mem 0xFFFC % 256) ||| ((mem 0xFFFD % 256) <<< 8) := by
  obtain ⟨i1, i2, i3, i4, i5⟩ := init_fields bcd_disabled
  have r0 : host_run 0 (host_init bcd_disabled mem) = some _ := congrArg some (init_sys bcd_disabled mem)
  obtain ⟨c1, t0, f1, g1, -⟩ := reset_tick0 (w65816_init bcd_disabled).1 0 0 0 true i3 i4 i5
  have r1 := host_run_step _ _ _ _ r0 (host_step_qread _ _ mem _ _ _ _ _ _ t0)
  obtain ⟨c2, t1, f2, g2⟩ := reset_tick1 c1 _ (mem _ % 256) 0 true false false rfl f1 g1
  have r2 := host_run_step _ _ _ _ r1 (host_step_qread _ _ mem _ _ _ _ _ _ t1)
  obtain ⟨c3, t2, f3, g3⟩ := reset_tick2 c2 _ (mem _ % 256) 0 true false true rfl f2 g2
  have r3 := host_run_step _ _ _ _ r2 (host_step_qread _ _ mem _ _ _ _ _ _ t2)
  obtain ⟨c4, t3, f4, g4⟩ := reset_tick3 c3 _ (mem _ % 256) 0 true false true rfl f3 g3
  have r4 := host_run_step _ _ _ _ r3 (host_step_qread _ _ mem _ _ _ _ _ _ t3)
  obtain ⟨c5, t4, f5, g5, -⟩ := brk_tick4 c4 _ (mem _ % 256) 0 true false true rfl f4
  have r5 := host_run_step _ _ _ _ r4 (host_step_qread _ _ mem _ _ _ _ _ _ t4)
  obtain ⟨c6, t5, f6, g6, -⟩ := brk_tick5 c5 _ (mem _ % 256) 0 true false true rfl f5
  have r6 := host_run_step _ _ _ _ r5 (host_step_qread _ _ mem _ _ _ _ _ _ t5)
  obtain ⟨c7, t6, f7, g7, -⟩ := brk_tick6 c6 c5.AD (mem (c5.AD % 65536 + 0 % 256 * 65536) % 256) 0 true false true rfl f6
  have hvec : ((mem (c5.AD % 65536 + 0 % 256 * 65536) % 256 % 256) <<< 8 ||| c6.AD) % 65536 =
      (mem 0xFFFC % 256) ||| ((mem 0xFFFD % 256) <<< 8) := by
    rw [g6, g5, g4]
    exact vec_word _ _
  refine ⟨?_, ?_⟩
  · intro k hk
    interval_cases k
    · exact ⟨_, (host_tick_of _ _ _ r0).trans t0, by rw [sync_qpins]; simp⟩
    · exact ⟨_, (host_tick_of _ _ _ r1).trans t1, by rw [sync_qpins]; simp⟩
    · exact ⟨_, (host_tick_of _ _ _ r2).trans t2, by rw [sync_qpins]; simp⟩
    · exact ⟨_, (host_tick_of _ _ _ r3).trans t3, by rw [sync_qpins]; simp⟩
    · exact ⟨_, (host_tick_of _ _ _ r4).trans t4, by rw [sync_qpins]; simp⟩
    · exact ⟨_, (host_tick_of _ _ _ r5).trans t5, by rw [sync_qpins]; simp⟩
  · refine ⟨_, (host_tick_of _ _ _ r6).trans t6, ?_, ?_, ?_, ?_⟩
    · exact fun h => absurd ((sync_qpins _ _ _ _ _ _).2 ⟨rfl, rfl⟩).1 (not_not.2 h)
    · exact fun h => absurd ((sync_qpins _ _ _ _ _ _).2 ⟨rfl, rfl⟩).2 (not_not.2 h)
    · rw [GA_word]
      show _ % 65536 % 65536 = _
      rw [Nat.mod_mod, hvec]
    · rw [g7, hvec]

/-! ## Every 64-bit pin word is the word of a field record -/

theorem toNat_decide_mod (x : Nat) : (decide (x % 2 = 1)).toNat = x % 2 := by
  rcases Nat.mod_two_eq_zero_or_one x with h | h <;> simp [h]

/-- The field record of a pin word. -/
theorem exists_word (p : Nat) (hp : p < 2 ^ 64) : ∃ f : PinF, f.word = p := by
  refine ⟨⟨p % 2 ^ 16, p / 2 ^ 16 % 2 ^ 8, decide (p / 2 ^ 24 % 2 = 1), decide (p / 2 ^ 25 % 2 = 1),
    decide (p / 2 ^ 26 % 2 = 1), decide (p / 2 ^ 27 % 2 = 1), decide (p / 2 ^ 28 % 2 = 1),
    decide (p / 2 ^ 29 % 2 = 1), decide (p / 2 ^ 30 % 2 = 1), decide (p / 2 ^ 31 % 2 = 1),
    p / 2 ^ 32 % 2 ^ 8, p / 2 ^ 40⟩, ?_⟩
  simp only [PinF.word, toNat_decide_mod]
  omega

theorem tick_detect_frame (c : w65816_t) (pins : Nat) :
    tick_detect c pins =
      { c with nmi_pip := (tick_detect c pins).nmi_pip, irq_pip := (tick_detect c pins).irq_pip } := by
  simp only [tick_detect]
  split_ifs <;> rfl

theorem stall_any (pins : Nat)
    (h : pins &&& (W65816_RW ||| W65816_RDY) = W65816_RW ||| W65816_RDY) :
    pins &&& (W65816_VPA ||| W65816_VDA ||| W65816_IRQ ||| W65816_NMI ||| W65816_RDY ||| W65816_RES) ≠ 0 := by
  have h1 : pins.testBit 29 = true := by
    have := congrArg (fun x => Nat.testBit x 29) h
    simp only [Nat.testBit_and] at this
    have h2 : (W65816_RW ||| W65816_RDY).testBit 29 = true := by decide
    rw [h2] at this
    simpa using this
  intro h0
  have := congrArg (fun x => Nat.testBit x 29) h0
  simp only [Nat.testBit_and, h1] at this
  have h2 : (W65816_VPA ||| W65816_VDA ||| W65816_IRQ ||| W65816_NMI ||| W65816_RDY ||| W65816_RES).testBit 29 = true := by decide
  rw [h2] at this
  simp at this

theorem tick_stalled (c : w65816_t) (pins : Nat)
    (h : pins &&& (W65816_RW ||| W65816_RDY) = W65816_RW ||| W65816_RDY) :
    w65816_tick c pins =
      some ({ tick_detect c pins with
              PINS := pins,
              irq_pip := ((tick_detect c pins).irq_pip <<< 1) % 65536 }, pins) := by
  unfold w65816_tick
  rw [if_pos (stall_any pins h), if_pos h]

/-- C3: whenever the input pin word has both RW and RDY set, the tick returns the input pin
word unchanged and leaves IR, PC, AD, C, X, Y, S, D, P, DBR, PBR, the emulation flag and
brk_flags unchanged. -/
theorem rdy_stall_frame (c : w65816_t) (pins : Nat)
    (h : pins &&& (W65816_RW ||| W65816_RDY) = W65816_RW ||| W65816_RDY) :
    ∃ c1, w65816_tick c pins = some (c1, pins) ∧
      c1.IR = c.IR ∧ c1.PC = c.PC ∧ c1.AD = c.AD ∧ c1.C = c.C ∧ c1.X = c.X ∧ c1.Y = c.Y ∧
      c1.S = c.S ∧ c1.D = c.D ∧ c1.P = c.P ∧ c1.DBR = c.DBR ∧ c1.PBR = c.PBR ∧
      c1.emulation = c.emulation ∧ c1.brk_flags = c.brk_flags := by
  refine ⟨_, tick_stalled c pins h, ?_⟩
  rw [tick_detect_frame]
  exact ⟨rfl, rfl, rfl, rfl, rfl, rfl, rfl, rfl, rfl, rfl, rfl, rfl, rfl⟩

theorem rdy_stall_frame_witness :
    (0x21000000 : Nat) &&& (W65816_RW ||| W65816_RDY) = W65816_RW ||| W65816_RDY ∧
    ∃ c1, w65816_tick (w65816_init false).1 0x21000000 = some (c1, 0x21000000) ∧
      c1.IR = (w65816_init false).1.IR ∧ c1.PC = (w65816_init false).1.PC ∧
      c1.AD = (w65816_init false).1.AD ∧ c1.C = (w65816_init false).1.C ∧
      c1.X = (w65816_init false).1.X ∧ c1.Y = (w65816_init false).1.Y ∧
      c1.S = (w65816_init false).1.S ∧ c1.D = (w65816_init false).1.D ∧
      c1.P = (w65816_init false).1.P ∧ c1.DBR = (w65816_init false).1.DBR ∧
      c1.PBR = (w65816_init false).1.PBR ∧
      c1.emulation = (w65816_init false).1.emulation ∧
      c1.brk_flags = (w65816_init false).1.brk_flags :=
  ⟨by decide, rdy_stall_frame (w65816_init false).1 0x21000000 (by decide)⟩

theorem and_FF00 (x : Nat) : x &&& 0xFF00 = x / 0x100 % 0x100 * 0x100 := by
  simpa using and_mask x 8 8

theorem and_20 (x : Nat) : x &&& 0x20 = x / 0x20 % 2 * 0x20 := by
  simpa using and_bit x 5

theorem or_20 (x : Nat) : x ||| 0x20 = x + 0x20 - x / 0x20 % 2 * 0x20 := by
  simpa using or_bit x 5

/-- The normalisation at the bottom of the tick establishes the emulation-mode invariant. -/
theorem tick_finish_inv (c : w65816_t) (p : Nat) (he : (tick_finish c p).1.emulation ≠ 0) :
    (tick_finish c p).1.S &&& 0xFF00 = 0x0100 ∧ (tick_finish c p).1.P &&& 0x20 ≠ 0 := by
  rw [tick_finish_emulation] at he
  rw [tick_finish_S, tick_finish_P, if_pos he, if_pos he]
  constructor
  · rw [and_FF, or_eq_add 8 _ _ (by norm_num) (by norm_num; exact Nat.mod_lt _ (by norm_num)),
      and_FF00]
    omega
  · rw [or_20, and_20]
    omega

/-- A tick that is not stalled ends in `tick_finish`. -/
theorem tick_unstalled (c : w65816_t) (pins : Nat) (r : w65816_t × Nat)
    (hns : pins &&& (W65816_RW ||| W65816_RDY) ≠ W65816_RW ||| W65816_RDY)
    (h : w65816_tick c pins = some r) :
    ∃ c1 p1, r = tick_finish c1 p1 := by
  unfold w65816_tick at h
  split_ifs at h
  all_goals
    simp only [Option.map_eq_some'] at h
    obtain ⟨a, -, ha⟩ := h
    exact ⟨_, _, ha.symm⟩

/-- C2 (counterexample): the state returned by `w65816_init`, ticked with its pin word and RDY
raised, is returned by the stalled tick with the emulation flag set and S = 0. -/
theorem emulation_invariant_fails_when_stalled :
    ∃ r, w65816_tick (w65816_init false).1 ((w65816_init false).2 ||| W65816_RDY) = some r ∧
      r.1.emulation ≠ 0 ∧ ¬ (r.1.S &&& 0xFF00 = 0x0100 ∧ r.1.P &&& 0x20 ≠ 0) := by
  refine ⟨_, tick_stalled _ _ (by decide), ?_, ?_⟩
  · rw [tick_detect_frame]; decide
  · rw [tick_detect_frame]; decide

/-- C2 (amended): if a tick whose input pins do not have both RW and RDY set returns with the
emulation flag set, then `(S & 0xFF00) == 0x0100` and `(P & 0x20) != 0` in the resulting
state; a tick stalled by RW and RDY leaves S, P and the emulation flag as they were. -/
theorem emulation_invariant_after_tick (c : w65816_t) (pins : Nat) (r : w65816_t × Nat)
    (h : w65816_tick c pins = some r) :
    (pins &&& (W65816_RW ||| W65816_RDY) ≠ W65816_RW ||| W65816_RDY → r.1.emulation ≠ 0 →
      r.1.S &&& 0xFF00 = 0x0100 ∧ r.1.P &&& 0x20 ≠ 0) ∧
    (pins &&& (W65816_RW ||| W65816_RDY) = W65816_RW ||| W65816_RDY →
      r.1.S = c.S ∧ r.1.P = c.P ∧ r.1.emulation = c.emulation) := by
  constructor
  · intro hns he
    obtain ⟨c1, p1, e⟩ := tick_unstalled c pins r hns h
    subst e
    exact tick_finish_inv c1 p1 he
  · intro hs
    rw [tick_stalled c pins hs] at h
    cases h
    rw [tick_detect_frame]
    exact ⟨rfl, rfl, rfl⟩

theorem emulation_invariant_after_tick_witness :
    ∃ r, w65816_tick (w65816_init false).1 (w65816_init false).2 = some r ∧
      (w65816_init false).2 &&& (W65816_RW ||| W65816_RDY) ≠ W65816_RW ||| W65816_RDY ∧
      r.1.emulation ≠ 0 ∧ r.1.S &&& 0xFF00 = 0x0100 ∧ r.1.P &&& 0x20 ≠ 0 :=
  ⟨(w65816_tick (w65816_init false).1 (w65816_init false).2).get (by decide),
    (Option.some_get _).symm, by decide, by decide,
    (emulation_invariant_after_tick _ _ _ (Option.some_get _).symm).1 (by decide) (by decide)⟩

/-! ## Interrupt detection -/

theorem and_bit_ne (x k : Nat) : x &&& (1 <<< k) ≠ 0 ↔ x.testBit k = true := by
  rw [and_bit, Nat.testBit_to_div_mod]
  have h2 : 0 < 2 ^ k := Nat.two_pow_pos k
  rcases Nat.mod_two_eq_zero_or_one (x / 2 ^ k) with h | h <;> simp [h, Nat.pos_iff_ne_zero.1 h2]

theorem and_bit_eq (x k : Nat) : x &&& (1 <<< k) = 0 ↔ x.testBit k = false := by
  have := and_bit_ne x k
  constructor
  · intro h
    by_contra hc
    exact (this.2 (by simpa using hc)) h
  · intro h
    by_contra hc
    rw [this.1 hc] at h
    exact Bool.noConfusion h

theorem nmi_edge_iff (p q : Nat) :
    0 ≠ ((p &&& (p ^^^ q)) &&& W65816_NMI) ↔ (p &&& W65816_NMI ≠ 0 ∧ q &&& W65816_NMI = 0) := by
  rw [ne_comm, W65816_NMI, and_bit_ne, and_bit_ne, and_bit_eq, Nat.testBit_and, Nat.testBit_xor]
  cases p.testBit 28 <;> cases q.testBit 28 <;> simp

theorem guard_bit (pins m : Nat) (k : Nat) (hm : m.testBit k = true) (h : pins &&& m = 0) :
    pins &&& (1 <<< k) = 0 := by
  rw [and_bit_eq]
  have := congrArg (fun x => Nat.testBit x k) h
  simpa [Nat.testBit_and, hm] using this

theorem tick_detect_idle (c : w65816_t) (pins : Nat)
    (h : pins &&& (W65816_VPA ||| W65816_VDA ||| W65816_IRQ ||| W65816_NMI ||| W65816_RDY |||
      W65816_RES) = 0) : tick_detect c pins = c := by
  have hn : ¬ (0 ≠ ((pins &&& (pins ^^^ c.PINS)) &&& W65816_NMI)) := by
    rw [nmi_edge_iff]
    intro hh
    exact hh.1 (guard_bit pins _ 28 (by decide) h)
  have hi : pins &&& W65816_IRQ = 0 := guard_bit pins _ 27 (by decide) h
  simp only [tick_detect, hn, hi, ite_false, ne_eq, not_true_eq_false, false_and]

theorem guard_of_bit (pins m k : Nat) (hm : m.testBit k = true) (h : pins &&& (1 <<< k) ≠ 0) :
    pins &&& m ≠ 0 := by
  rw [and_bit_ne] at h
  intro h0
  have := congrArg (fun x => Nat.testBit x k) h0
  simp [Nat.testBit_and, hm, h] at this

/-- A sync tick that is not stalled: detection, sync handling, decoder, normalisation. -/
theorem tick_sync_raw (c : w65816_t) (pins : Nat)
    (hv : pins &&& W65816_VPA ≠ 0) (hd : pins &&& W65816_VDA ≠ 0)
    (hns : pins &&& (W65816_RW ||| W65816_RDY) ≠ W65816_RW ||| W65816_RDY) :
    w65816_tick c pins =
      (tick_decode (tick_sync (tick_detect c pins) pins).1
        (_OFF (tick_sync (tick_detect c pins) pins).2 (W65816_VPA ||| W65816_VDA))).map
        (fun r => tick_finish r.1 r.2) := by
  unfold w65816_tick
  rw [if_pos (guard_of_bit pins _ 25 (by decide) hv), if_neg hns, if_pos ⟨hv, hd⟩]

/-- A tick that is neither stalled nor a sync tick: detection, decoder, normalisation. -/
theorem tick_nosync_raw (c : w65816_t) (pins : Nat)
    (hsy : ¬ (pins &&& W65816_VPA ≠ 0 ∧ pins &&& W65816_VDA ≠ 0))
    (hns : pins &&& (W65816_RW ||| W65816_RDY) ≠ W65816_RW ||| W65816_RDY) :
    ∃ p1, w65816_tick c pins =
      (tick_decode (tick_detect c pins) p1).map (fun r => tick_finish r.1 r.2) := by
  unfold w65816_tick
  by_cases hg : pins &&& (W65816_VPA ||| W65816_VDA ||| W65816_IRQ ||| W65816_NMI ||| W65816_RDY |||
      W65816_RES) ≠ 0
  · rw [if_pos hg, if_neg hns, if_neg hsy]
    exact ⟨_, rfl⟩
  · rw [if_neg hg, tick_detect_idle c pins (not_not.1 hg)]
    exact ⟨_, rfl⟩

theorem pip_bit10 (x : Nat) : ((x ||| 0x100) % 65536) &&& 0x400 = x &&& 0x400 := by
  have h1 := or_bit x 8
  have h2 := and_bit x 10
  have h3 := and_bit ((x ||| 0x100) % 65536) 10
  simp only [Nat.reduceShiftLeft, Nat.reducePow] at h1 h2 h3
  rw [h3, h2, h1]
  omega

theorem pip_high (x : Nat) : ((x ||| 0x100) % 65536) &&& 0xFC00 = x &&& 0xFC00 := by
  have h1 := or_bit x 8
  have h2 := and_mask x 6 10
  have h3 := and_mask ((x ||| 0x100) % 65536) 6 10
  simp only [Nat.reduceShiftLeft, Nat.reducePow, Nat.reduceSub] at h1 h2 h3
  rw [h3, h2, h1]
  omega

theorem tick_detect_bit10 (c : w65816_t) (pins : Nat) :
    (tick_detect c pins).irq_pip &&& 0x400 = c.irq_pip &&& 0x400 := by
  simp only [tick_detect]
  split_ifs <;> first | rfl | exact pip_bit10 _

theorem tick_detect_high (c : w65816_t) (pins : Nat) :
    (tick_detect c pins).nmi_pip &&& 0xFC00 = c.nmi_pip &&& 0xFC00 := by
  simp only [tick_detect]
  split_ifs <;> first | rfl | exact pip_high _

theorem tick_detect_brk (c : w65816_t) (pins : Nat) :
    (tick_detect c pins).brk_flags = c.brk_flags := by
  rw [tick_detect_frame]

theorem tick_detect_PC (c : w65816_t) (pins : Nat) : (tick_detect c pins).PC = c.PC := by
  rw [tick_detect_frame]

theorem tick_detect_P (c : w65816_t) (pins : Nat) : (tick_detect c pins).P = c.P := by
  rw [tick_detect_frame]

theorem tick_detect_emulation (c : w65816_t) (pins : Nat) :
    (tick_detect c pins).emulation = c.emulation := by
  rw [tick_detect_frame]

/-- The value of `brk_flags` after the sync handling. -/
theorem tick_sync_brk (c : w65816_t) (pins : Nat) :
    (tick_sync c pins).1.brk_flags = sync_flags c (decide (pins &&& W65816_RES ≠ 0)) := by
  simp only [tick_sync, tick_sync_latch, tick_sync_force, sync_flags, eq_comm (a := 0), ne_eq, decide_not, Bool.not_eq_true',
    decide_eq_false_iff_not, ite_not]
  split_ifs <;> rfl

theorem tick_sync_cases (c : w65816_t) (pins : Nat) :
    ((tick_sync c pins).1.brk_flags ≠ 0 →
      (tick_sync c pins).1.IR = 0 ∧ (tick_sync c pins).1.PC = c.PC) ∧
    ((tick_sync c pins).1.brk_flags = 0 →
      (tick_sync c pins).1.IR = (_GD pins <<< 3) % 65536 ∧
      (tick_sync c pins).1.PC = (c.PC + 1) % 65536) := by
  simp only [tick_sync, tick_sync_latch, tick_sync_force]
  split_ifs with h1 h2 h3 h4 h5 h6 h7 h8 h9 h10 h11 h12 <;> constructor <;> intro h <;>
    first
    | exact ⟨rfl, rfl⟩
    | exact absurd h (by assumption)

theorem sync_flags_gain (c : w65816_t) (res : Bool) (hb : c.brk_flags < 256) :
    sync_flags c res =
      c.brk_flags ||| ((if c.irq_pip &&& 0x400 ≠ 0 then W65816_BRK_IRQ else 0) |||
        (if c.nmi_pip &&& 0xFC00 ≠ 0 then W65816_BRK_NMI else 0) |||
        (if res = true then W65816_BRK_RESET else 0)) := by
  have lt : ∀ x y : Nat, x < 256 → y < 256 → (x ||| y) % 256 = x ||| y := fun x y hx hy =>
    Nat.mod_eq_of_lt (Nat.or_lt_two_pow (n := 8) hx hy)
  have lt2 : ∀ x y : Nat, x < 256 → y < 256 → (x ||| y) < 256 := fun x y hx hy =>
    Nat.or_lt_two_pow (n := 8) hx hy
  simp only [sync_flags, eq_comm (a := 0), ne_eq, W65816_BRK_IRQ, W65816_BRK_NMI,
    W65816_BRK_RESET, Nat.reduceShiftLeft]
  cases res <;> by_cases h1 : c.irq_pip &&& 0x400 = 0 <;> by_cases h2 : c.nmi_pip &&& 0xFC00 = 0 <;>
    simp only [h1, h2, not_true_eq_false, not_false_eq_true, ite_true, ite_false, Nat.or_zero,
      Nat.zero_or, Bool.false_eq_true, Nat.reduceOr]
  · rw [lt _ _ hb (by norm_num)]
  · rw [lt _ _ hb (by norm_num)]
  · rw [lt _ _ hb (by norm_num), lt _ _ (lt2 _ _ hb (by norm_num)) (by norm_num), Nat.lor_assoc]
    rfl
  · rw [lt _ _ hb (by norm_num)]
  · rw [lt _ _ hb (by norm_num), lt _ _ (lt2 _ _ hb (by norm_num)) (by norm_num), Nat.lor_assoc]
    rfl
  · rw [lt _ _ hb (by norm_num), lt _ _ (lt2 _ _ hb (by norm_num)) (by norm_num), Nat.lor_assoc]
    rfl
  · rw [lt _ _ hb (by norm_num), lt _ _ (lt2 _ _ hb (by norm_num)) (by norm_num),
      lt _ _ (lt2 _ _ (lt2 _ _ hb (by norm_num)) (by norm_num)) (by norm_num), Nat.lor_assoc,
      Nat.lor_assoc]
    rfl


theorem GD_shift_lt (pins : Nat) : (_GD pins <<< 3) % 65536 = _GD pins <<< 3 := by
  have h : _GD pins < 256 := Nat.mod_lt _ (by norm_num)
  rw [Nat.shiftLeft_eq]
  omega

theorem brk0_raw (c : w65816_t) (p : Nat) : ∃ p1, op_00 0 c p = some (c, p1) :=
  ⟨_, rfl⟩

/-- C6: at a sync tick that is not stalled, brk_flags gains IRQ iff `irq_pip & 0x400` is
non-zero, NMI iff `nmi_pip & 0xFC00` is non-zero and RESET iff RES is high; if the result `F`
is non-zero the tick executes sub-cycle 0 of opcode 0x00 and PC is not incremented, otherwise
it decodes the opcode on the data bus with PC incremented by one. -/
theorem sync_tick_dispatch (c : w65816_t) (pins F : Nat) (hb : c.brk_flags < 256)
    (hv : pins &&& W65816_VPA ≠ 0) (hd : pins &&& W65816_VDA ≠ 0)
    (hns : pins &&& (W65816_RW ||| W65816_RDY) ≠ W65816_RW ||| W65816_RDY)
    (hF : F = c.brk_flags ||| ((if c.irq_pip &&& 0x400 ≠ 0 then W65816_BRK_IRQ else 0) |||
        (if c.nmi_pip &&& 0xFC00 ≠ 0 then W65816_BRK_NMI else 0) |||
        (if pins &&& W65816_RES ≠ 0 then W65816_BRK_RESET else 0))) :
    (F ≠ 0 → ∃ c0 p0 r, c0.brk_flags = F ∧ c0.PC = c.PC ∧
      w65816_tick c pins = (op_00 0 c0 p0).map (fun r => tick_finish r.1 r.2) ∧
      w65816_tick c pins = some r ∧ r.1.IR = 1 ∧ r.1.PC = c.PC ∧ r.1.brk_flags = F) ∧
    (F = 0 → ∃ c0 p0, c0.brk_flags = 0 ∧ c0.PC = (c.PC + 1) % 65536 ∧
      c0.IR = (_GD pins <<< 3) + 1 ∧
      w65816_tick c pins =
        (w65816_decode (_GD pins <<< 3) c0 p0).map (fun r => tick_finish r.1 r.2)) := by
  have hflags : (tick_sync (tick_detect c pins) pins).1.brk_flags = F := by
    rw [tick_sync_brk, sync_flags_gain _ _ (by rw [tick_detect_brk]; exact hb), tick_detect_brk,
      tick_detect_bit10, tick_detect_high, hF]
    simp only [decide_eq_true_eq]
  have hc := tick_sync_cases (tick_detect c pins) pins
  rw [hflags, tick_detect_PC] at hc
  have ht := tick_sync_raw c pins hv hd hns
  unfold tick_decode at ht
  constructor
  · intro h
    obtain ⟨hIR, hPC⟩ := hc.1 h
    rw [hIR, decode_brk 0 (by norm_num)] at ht
    obtain ⟨p1, e⟩ := brk0_raw { (tick_sync (tick_detect c pins) pins).1 with IR := (0 + 1) % 65536 }
      (_RD (_OFF (tick_sync (tick_detect c pins) pins).2 (W65816_VPA ||| W65816_VDA)))
    have ht2 : w65816_tick c pins = some (tick_finish
        { (tick_sync (tick_detect c pins) pins).1 with IR := (0 + 1) % 65536 } p1) := by
      rw [ht, e]; rfl
    exact ⟨{ (tick_sync (tick_detect c pins) pins).1 with IR := (0 + 1) % 65536 }, _, _,
      hflags, hPC, ht, ht2, tick_finish_IR _ _, (tick_finish_PC _ _).trans hPC,
      (tick_finish_brk _ _).trans hflags⟩
  · intro h
    obtain ⟨hIR, hPC⟩ := hc.2 h
    rw [hIR, GD_shift_lt] at ht
    refine ⟨{ (tick_sync (tick_detect c pins) pins).1 with
      IR := ((_GD pins <<< 3) + 1) % 65536 }, _, ?_, ?_, ?_, ht⟩
    · exact hflags.trans h
    · exact hPC
    · show (_GD pins <<< 3 + 1) % 65536 = _
      have h : _GD pins < 256 := Nat.mod_lt _ (by norm_num)
      rw [Nat.shiftLeft_eq]
      omega

theorem sync_tick_dispatch_witness :
    (w65816_init false).1.brk_flags < 256 ∧ (w65816_init false).2 &&& W65816_VPA ≠ 0 ∧
    (w65816_init false).2 &&& W65816_VDA ≠ 0 ∧
    (w65816_init false).2 &&& (W65816_RW ||| W65816_RDY) ≠ W65816_RW ||| W65816_RDY ∧
    ∃ r, w65816_tick (w65816_init false).1 (w65816_init false).2 = some r ∧ r.1.IR = 1 ∧
      r.1.PC = (w65816_init false).1.PC ∧ r.1.brk_flags = 4 :=
  ⟨by decide, by decide, by decide, by decide,
    match (sync_tick_dispatch (w65816_init false).1 (w65816_init false).2 4 (by decide) (by decide)
      (by decide) (by decide) (by decide)).1 (by decide) with
    | ⟨_, _, r, _, _, _, h1, h2, h3, h4⟩ => ⟨r, h1, h2, h3, h4⟩⟩

/-! ## The vector sub-cycles of BRK on arbitrary pin words -/

theorem brk3_raw (c : w65816_t) (p : Nat) :
    ∃ r, op_00 3 c p = some r ∧
      r.1.AD = (if c.brk_flags &&& W65816_BRK_RESET ≠ 0 then 0xFFFC
        else if c.brk_flags &&& W65816_BRK_NMI ≠ 0 then 0xFFFA else 0xFFFE) := by
  refine ⟨_, rfl, ?_⟩
  simp only [set_S]
  split_ifs <;> rfl

theorem brk4_raw (c : w65816_t) (p : Nat) :
    ∃ r, op_00 4 c p = some r ∧ r.1.P = ((c.P ||| 0x14) % 256) &&& 0x08 ∧ r.1.brk_flags = 0 ∧
      r.1.emulation = c.emulation :=
  ⟨_, rfl, rfl, rfl, rfl⟩

/-- A tick inside the BRK micro-program (IR = k below 8) on pins that are neither stalled nor
a sync: sub-cycle k of opcode 0x00 on the state after detection. -/
theorem tick_brk_raw (c : w65816_t) (pins k : Nat) (hk : k < 8) (hIR : c.IR = k)
    (hsy : ¬ (pins &&& W65816_VPA ≠ 0 ∧ pins &&& W65816_VDA ≠ 0))
    (hns : pins &&& (W65816_RW ||| W65816_RDY) ≠ W65816_RW ||| W65816_RDY) :
    ∃ p1, w65816_tick c pins =
      (op_00 k { tick_detect c pins with IR := (k + 1) % 65536 } p1).map
        (fun r => tick_finish r.1 r.2) := by
  obtain ⟨p1, h⟩ := tick_nosync_raw c pins hsy hns
  refine ⟨_RD p1, ?_⟩
  rw [h]
  unfold tick_decode
  simp only [tick_detect_IR, hIR]
  rw [decode_brk k hk]

/-- C7: sub-cycle 3 of the BRK micro-program loads AD with 0xFFFC whenever brk_flags contains
RESET, otherwise with 0xFFFA whenever it contains NMI, otherwise with 0xFFFE, for every value
of brk_flags. -/
theorem brk_vector_priority (c : w65816_t) (pins : Nat) (hIR : c.IR = 3)
    (hsy : ¬ (pins &&& W65816_VPA ≠ 0 ∧ pins &&& W65816_VDA ≠ 0))
    (hns : pins &&& (W65816_RW ||| W65816_RDY) ≠ W65816_RW ||| W65816_RDY) :
    ∃ r, w65816_tick c pins = some r ∧
      r.1.AD = (if c.brk_flags &&& W65816_BRK_RESET ≠ 0 then 0xFFFC
        else if c.brk_flags &&& W65816_BRK_NMI ≠ 0 then 0xFFFA else 0xFFFE) := by
  obtain ⟨p1, h⟩ := tick_brk_raw c pins 3 (by norm_num) hIR hsy hns
  obtain ⟨r, e, hAD⟩ := brk3_raw { tick_detect c pins with IR := (3 + 1) % 65536 } p1
  rw [e] at h
  refine ⟨_, h, ?_⟩
  rw [tick_finish_AD, hAD]
  show (if (tick_detect c pins).brk_flags &&& W65816_BRK_RESET ≠ 0 then _ else
    if (tick_detect c pins).brk_flags &&& W65816_BRK_NMI ≠ 0 then _ else _) = _
  rw [tick_detect_brk]

theorem brk_vector_priority_witness :
    ({ (w65816_init false).1 with IR := 3, brk_flags := 6 } : w65816_t).IR = 3 ∧
    ¬ ((W65816_RW ||| W65816_VDA) &&& W65816_VPA ≠ 0 ∧ (W65816_RW ||| W65816_VDA) &&& W65816_VDA ≠ 0) ∧
    (W65816_RW ||| W65816_VDA) &&& (W65816_RW ||| W65816_RDY) ≠ W65816_RW ||| W65816_RDY ∧
    ∃ r, w65816_tick { (w65816_init false).1 with IR := 3, brk_flags := 6 }
        (W65816_RW ||| W65816_VDA) = some r ∧ r.1.AD = 0xFFFC :=
  ⟨rfl, by decide, by decide,
    brk_vector_priority { (w65816_init false).1 with IR := 3, brk_flags := 6 }
      (W65816_RW ||| W65816_VDA) rfl (by decide) (by decide)⟩


/-! ## Sub-cycle 4 of BRK: the flag update -/

theorem and_04 (x : Nat) : x &&& 0x04 = x / 4 % 2 * 4 := by
  simpa using and_bit x 2

theorem and_08 (x : Nat) : x &&& 0x08 = x / 8 % 2 * 8 := by
  simpa using and_bit x 3

theorem or_14 (x : Nat) : x ||| 0x14 = x + 20 - x / 16 % 2 * 16 - x / 4 % 2 * 4 := by
  have h : x ||| 0x14 = (x ||| 0x10) ||| 0x04 := by
    rw [Nat.lor_assoc]
    rfl
  have h1 := or_bit x 4
  have h2 := or_bit (x ||| 0x10) 2
  simp only [Nat.reduceShiftLeft, Nat.reducePow] at h1 h2
  rw [h, h2, h1]
  omega

/-- C8: what sub-cycle 4 of the BRK micro-program does to the flags: `P &= W65816_DF` keeps
only the D bit, so after the tick the I flag is clear and the D flag is the D flag of the
starting P; brk_flags is zero. -/
theorem brk_flag_update (c : w65816_t) (pins : Nat) (hIR : c.IR = 4)
    (hsy : ¬ (pins &&& W65816_VPA ≠ 0 ∧ pins &&& W65816_VDA ≠ 0))
    (hns : pins &&& (W65816_RW ||| W65816_RDY) ≠ W65816_RW ||| W65816_RDY) :
    ∃ r, w65816_tick c pins = some r ∧ r.1.P &&& W65816_IF = 0 ∧
      r.1.P &&& W65816_DF = c.P &&& W65816_DF ∧ r.1.brk_flags = 0 := by
  obtain ⟨p1, h⟩ := tick_brk_raw c pins 4 (by norm_num) hIR hsy hns
  obtain ⟨r, e, hP, hb, he⟩ := brk4_raw { tick_detect c pins with IR := (4 + 1) % 65536 } p1
  rw [e] at h
  refine ⟨_, h, ?_, ?_, (tick_finish_brk _ _).trans hb⟩
  · rw [tick_finish_P, hP]
    show (if r.1.emulation ≠ 0 then ((((tick_detect c pins).P ||| 0x14) % 256 &&& 0x08) ||| 0x20) % 256
      else ((tick_detect c pins).P ||| 0x14) % 256 &&& 0x08) &&& W65816_IF = 0
    simp only [W65816_IF, Nat.reduceShiftLeft]
    split_ifs
    · rw [and_04, or_20, and_08]; omega
    · rw [and_04, and_08]; omega
  · rw [tick_finish_P, hP]
    show (if r.1.emulation ≠ 0 then ((((tick_detect c pins).P ||| 0x14) % 256 &&& 0x08) ||| 0x20) % 256
      else ((tick_detect c pins).P ||| 0x14) % 256 &&& 0x08) &&& W65816_DF = _
    rw [tick_detect_P]
    simp only [W65816_DF, Nat.reduceShiftLeft]
    split_ifs
    · rw [and_08, or_20, and_08, or_14, and_08]; omega
    · rw [and_08, and_08, or_14, and_08]; omega

theorem brk_flag_update_witness :
    ({ (w65816_init false).1 with IR := 4, P := 0x08 } : w65816_t).IR = 4 ∧
    ¬ ((W65816_RW ||| W65816_VDA) &&& W65816_VPA ≠ 0 ∧ (W65816_RW ||| W65816_VDA) &&& W65816_VDA ≠ 0) ∧
    (W65816_RW ||| W65816_VDA) &&& (W65816_RW ||| W65816_RDY) ≠ W65816_RW ||| W65816_RDY ∧
    ∃ r, w65816_tick { (w65816_init false).1 with IR := 4, P := 0x08 }
        (W65816_RW ||| W65816_VDA) = some r ∧ r.1.P &&& W65816_IF = 0 ∧
      r.1.P &&& W65816_DF = 0x08 ∧ r.1.brk_flags = 0 :=
  ⟨rfl, by decide, by decide,
    brk_flag_update { (w65816_init false).1 with IR := 4, P := 0x08 }
      (W65816_RW ||| W65816_VDA) rfl (by decide) (by decide)⟩

/-! ## The decoder leaves the interrupt pipelines untouched

Every helper and every decoder case writes registers, flags and pins only; `irq_pip` and
`nmi_pip` are written by the interrupt detection, the sync handling and the shifts at the end
of the tick. -/

set_option linter.unusedTactic false
set_option linter.unreachableTactic false
set_option linter.unnecessarySeqFocus false

theorem ite_irq_of (p : Prop) [Decidable p] (a b : w65816_t) (x : Nat)
    (ha : a.irq_pip = x) (hb : b.irq_pip = x) : (if p then a else b).irq_pip = x := by
  split_ifs <;> assumption

theorem ite_nmi_of (p : Prop) [Decidable p] (a b : w65816_t) (x : Nat)
    (ha : a.nmi_pip = x) (hb : b.nmi_pip = x) : (if p then a else b).nmi_pip = x := by
  split_ifs <;> assumption

theorem ite_fst_irq_of (p : Prop) [Decidable p] (a b : w65816_t × Nat) (x : Nat)
    (ha : a.1.irq_pip = x) (hb : b.1.irq_pip = x) : (if p then a else b).1.irq_pip = x := by
  split_ifs <;> assumption

theorem ite_fst_nmi_of (p : Prop) [Decidable p] (a b : w65816_t × Nat) (x : Nat)
    (ha : a.1.nmi_pip = x) (hb : b.1.nmi_pip = x) : (if p then a else b).1.nmi_pip = x := by
  split_ifs <;> assumption

theorem dec_X_pips (c : w65816_t) (v p : Nat) :
    (({ c with X := v } : w65816_t), p).1.irq_pip = c.irq_pip ∧
    (({ c with X := v } : w65816_t), p).1.nmi_pip = c.nmi_pip := ⟨rfl, rfl⟩

theorem dec_Y_pips (c : w65816_t) (v p : Nat) :
    (({ c with Y := v } : w65816_t), p).1.irq_pip = c.irq_pip ∧
    (({ c with Y := v } : w65816_t), p).1.nmi_pip = c.nmi_pip := ⟨rfl, rfl⟩

theorem dec_AD_NZ_pips (c : w65816_t) (v w p : Nat) :
    (_NZ ({ c with AD := v } : w65816_t) w, p).1.irq_pip = c.irq_pip ∧
    (_NZ ({ c with AD := v } : w65816_t) w, p).1.nmi_pip = c.nmi_pip := ⟨rfl, rfl⟩

theorem adc_irq (c : w65816_t) (v x : Nat) (h : c.irq_pip = x) :
    (_w65816_adc c v).irq_pip = x := by
  subst h
  unfold _w65816_adc set_A
  dsimp only []
  repeat' (first | apply ite_irq_of | rfl)

theorem adc_nmi (c : w65816_t) (v x : Nat) (h : c.nmi_pip = x) :
    (_w65816_adc c v).nmi_pip = x := by
  subst h
  unfold _w65816_adc set_A
  dsimp only []
  repeat' (first | apply ite_nmi_of | rfl)

theorem sbc_irq (c : w65816_t) (v x : Nat) (h : c.irq_pip = x) :
    (_w65816_sbc c v).irq_pip = x := by
  subst h
  unfold _w65816_sbc set_A
  dsimp only []
  repeat' (first | apply ite_irq_of | rfl)

theorem sbc_nmi (c : w65816_t) (v x : Nat) (h : c.nmi_pip = x) :
    (_w65816_sbc c v).nmi_pip = x := by
  subst h
  unfold _w65816_sbc set_A
  dsimp only []
  repeat' (first | apply ite_nmi_of | rfl)

theorem bit_irq (c : w65816_t) (v x : Nat) (h : c.irq_pip = x) :
    (_w65816_bit c v).irq_pip = x := by
  subst h
  unfold _w65816_bit
  dsimp only []
  repeat' (first | apply ite_irq_of | rfl)

theorem bit_nmi (c : w65816_t) (v x : Nat) (h : c.nmi_pip = x) :
    (_w65816_bit c v).nmi_pip = x := by
  subst h
  unfold _w65816_bit
  dsimp only []
  repeat' (first | apply ite_nmi_of | rfl)

theorem rol_irq (c : w65816_t) (v x : Nat) (h : c.irq_pip = x) :
    (_w65816_rol c v).1.irq_pip = x := by
  subst h
  unfold _w65816_rol
  dsimp only []
  repeat' (first | apply ite_irq_of | rfl)

theorem rol_nmi (c : w65816_t) (v x : Nat) (h : c.nmi_pip = x) :
    (_w65816_rol c v).1.nmi_pip = x := by
  subst h
  unfold _w65816_rol
  dsimp only []
  repeat' (first | apply ite_nmi_of | rfl)

theorem ror_irq (c : w65816_t) (v x : Nat) (h : c.irq_pip = x) :
    (_w65816_ror c v).1.irq_pip = x := by
  subst h
  unfold _w65816_ror
  dsimp only []
  repeat' (first | apply ite_irq_of | rfl)

theorem ror_nmi (c : w65816_t) (v x : Nat) (h : c.nmi_pip = x) :
    (_w65816_ror c v).1.nmi_pip = x := by
  subst h
  unfold _w65816_ror
  dsimp only []
  repeat' (first | apply ite_nmi_of | rfl)

theorem xce_irq (c : w65816_t) (x : Nat) (h : c.irq_pip = x) :
    (_w65816_xce c).irq_pip = x := by
  subst h
  unfold _w65816_xce
  dsimp only []
  repeat' (first | apply ite_irq_of | rfl)

theorem xce_nmi (c : w65816_t) (x : Nat) (h : c.nmi_pip = x) :
    (_w65816_xce c).nmi_pip = x := by
  subst h
  unfold _w65816_xce
  dsimp only []
  repeat' (first | apply ite_nmi_of | rfl)

theorem op_00_pips (step : Nat) (c : w65816_t) (pins : Nat) (r : w65816_t × Nat)
    (h : op_00 step c pins = some r) : r.1.irq_pip = c.irq_pip ∧ r.1.nmi_pip = c.nmi_pip := by
  unfold op_00 at h
  split at h <;> first
    | exact Option.noConfusion h
    | (cases h; constructor <;> (first
        | (dsimp only [set_S] <;>
           repeat' (first | apply ite_irq_of | apply ite_nmi_of | apply ite_fst_irq_of | apply ite_fst_nmi_of | rfl))
        | rfl))

theorem op_01_pips (step : Nat) (c : w65816_t) (pins : Nat) (r : w65816_t × Nat)
    (h : op_01 step c pins = some r) : r.1.irq_pip = c.irq_pip ∧ r.1.nmi_pip = c.nmi_pip := by
  unfold op_01 at h
  split at h <;> first
    | exact Option.noConfusion h
    | (cases h; constructor <;> (first
        | (dsimp only [set_A, _NZ] <;>
           repeat' (first | apply ite_irq_of | apply ite_nmi_of | apply ite_fst_irq_of | apply ite_fst_nmi_of | rfl))
        | rfl))

theorem op_02_pips (step : Nat) (c : w65816_t) (pins : Nat) (r : w65816_t × Nat)
    (h : op_02 step c pins = some r) : r.1.irq_pip = c.irq_pip ∧ r.1.nmi_pip = c.nmi_pip := by
  unfold op_02 at h
  split at h <;> first
    | exact Option.noConfusion h
    | (cases h; constructor <;> (first
        | (dsimp only [set_S] <;>
           repeat' (first | apply ite_irq_of | apply ite_nmi_of | apply ite_fst_irq_of | apply ite_fst_nmi_of | rfl))
        | rfl))

theorem op_03_pips (step : Nat) (c : w65816_t) (pins : Nat) (r : w65816_t × Nat)
    (h : op_03 step c pins = some r) : r.1.irq_pip = c.irq_pip ∧ r.1.nmi_pip = c.nmi_pip := by
  unfold op_03 at h
  split at h <;> first
    | exact Option.noConfusion h
    | (cases h; constructor <;> (first
        | (dsimp only [set_A, _NZ] <;>
           repeat' (first | apply ite_irq_of | apply ite_nmi_of | apply ite_fst_irq_of | apply ite_fst_nmi_of | rfl))
        | rfl))

theorem op_04_pips (step : Nat) (c : w65816_t) (pins : Nat) (r : w65816_t × Nat)
    (h : op_04 step c pins = some r) : r.1.irq_pip = c.irq_pip ∧ r.1.nmi_pip = c.nmi_pip := by
  unfold op_04 at h
  split at h <;> first
    | exact Option.noConfusion h
    | (cases h; constructor <;> (first
        | (dsimp only [_Z] <;>
           repeat' (first | apply ite_irq_of | apply ite_nmi_of | apply ite_fst_irq_of | apply ite_fst_nmi_of | rfl))
        | rfl))

theorem op_05_pips (step : Nat) (c : w65816_t) (pins : Nat) (r : w65816_t × Nat)
    (h : op_05 step c pins = some r) : r.1.irq_pip = c.irq_pip ∧ r.1.nmi_pip = c.nmi_pip := by
  unfold op_05 at h
  split at h <;> first
    | exact Option.noConfusion h
    | (cases h; constructor <;> (first
        | (dsimp only [set_A, _NZ] <;>
           repeat' (first | apply ite_irq_of | apply ite_nmi_of | apply ite_fst_irq_of | apply ite_fst_nmi_of | rfl))
        | rfl))

theorem op_06_pips (step : Nat) (c : w65816_t) (pins : Nat) (r : w65816_t × Nat)
    (h : op_06 step c pins = some r) : r.1.irq_pip = c.irq_pip ∧ r.1.nmi_pip = c.nmi_pip := by
  unfold op_06 at h
  split at h <;> first
    | exact Option.noConfusion h
    | (cases h; constructor <;> (first
        | (dsimp only [_w65816_asl] <;>
           repeat' (first | apply ite_irq_of | apply ite_nmi_of | apply ite_fst_irq_of | apply ite_fst_nmi_of | rfl))
        | rfl))

theorem op_07_pips (step : Nat) (c : w65816_t) (pins : Nat) (r : w65816_t × Nat)
    (h : op_07 step c pins = some r) : r.1.irq_pip = c.irq_pip ∧ r.1.nmi_pip = c.nmi_pip := by
  unfold op_07 at h
  split at h <;> first
    | exact Option.noConfusion h
    | (cases h; constructor <;> (first
        | (dsimp only [set_A, _NZ] <;>
           repeat' (first | apply ite_irq_of | apply ite_nmi_of | apply ite_fst_irq_of | apply ite_fst_nmi_of | rfl))
        | rfl))

theorem op_08_pips (step : Nat) (c : w65816_t) (pins : Nat) (r : w65816_t × Nat)
    (h : op_08 step c pins = some r) : r.1.irq_pip = c.irq_pip ∧ r.1.nmi_pip = c.nmi_pip := by
  unfold op_08 at h
  split at h <;> first
    | exact Option.noConfusion h
    | (cases h; constructor <;> (first
        | (dsimp only [set_S] <;>
           repeat' (first | apply ite_irq_of | apply ite_nmi_of | apply ite_fst_irq_of | apply ite_fst_nmi_of | rfl))
        | rfl))

theorem op_09_pips (step : Nat) (c : w65816_t) (pins : Nat) (r : w65816_t × Nat)
    (h : op_09 step c pins = some r) : r.1.irq_pip = c.irq_pip ∧ r.1.nmi_pip = c.nmi_pip := by
  unfold op_09 at h
  split at h <;> first
    | exact Option.noConfusion h
    | (cases h; constructor <;> (first
        | (dsimp only [set_A, _NZ] <;>
           repeat' (first | apply ite_irq_of | apply ite_nmi_of | apply ite_fst_irq_of | apply ite_fst_nmi_of | rfl))
        | rfl))

theorem op_0A_pips (step : Nat) (c : w65816_t) (pins : Nat) (r : w65816_t × Nat)
    (h : op_0A step c pins = some r) : r.1.irq_pip = c.irq_pip ∧ r.1.nmi_pip = c.nmi_pip := by
  unfold op_0A at h
  split at h <;> first
    | exact Option.noConfusion h
    | (cases h; constructor <;> (first
        | (dsimp only [set_A, _w65816_asl] <;>
           repeat' (first | apply ite_irq_of | apply ite_nmi_of | apply ite_fst_irq_of | apply ite_fst_nmi_of | rfl))
        | rfl))

theorem op_0B_pips (step : Nat) (c : w65816_t) (pins : Nat) (r : w65816_t × Nat)
    (h : op_0B step c pins = some r) : r.1.irq_pip = c.irq_pip ∧ r.1.nmi_pip = c.nmi_pip := by
  unfold op_0B at h
  split at h <;> first
    | exact Option.noConfusion h
    | (cases h; constructor <;> (first
        | (dsimp only [set_S] <;>
           repeat' (first | apply ite_irq_of | apply ite_nmi_of | apply ite_fst_irq_of | apply ite_fst_nmi_of | rfl))
        | rfl))

theorem op_0C_pips (step : Nat) (c : w65816_t) (pins : Nat) (r : w65816_t × Nat)
    (h : op_0C step c pins = some r) : r.1.irq_pip = c.irq_pip ∧ r.1.nmi_pip = c.nmi_pip := by
  unfold op_0C at h
  split at h <;> first
    | exact Option.noConfusion h
    | (cases h; constructor <;> (first
        | (dsimp only [_Z] <;>
           repeat' (first | apply ite_irq_of | apply ite_nmi_of | apply ite_fst_irq_of | apply ite_fst_nmi_of | rfl))
        | rfl))

theorem op_0D_pips (step : Nat) (c : w65816_t) (pins : Nat) (r : w65816_t × Nat)
    (h : op_0D step c pins = some r) : r.1.irq_pip = c.irq_pip ∧ r.1.nmi_pip = c.nmi_pip := by
  unfold op_0D at h
  split at h <;> first
    | exact Option.noConfusion h
    | (cases h; constructor <;> (first
        | (dsimp only [set_A, _NZ] <;>
           repeat' (first | apply ite_irq_of | apply ite_nmi_of | apply ite_fst_irq_of | apply ite_fst_nmi_of | rfl))
        | rfl))

theorem op_0E_pips (step : Nat) (c : w65816_t) (pins : Nat) (r : w65816_t × Nat)
    (h : op_0E step c pins = some r) : r.1.irq_pip = c.irq_pip ∧ r.1.nmi_pip = c.nmi_pip := by
  unfold op_0E at h
  split at h <;> first
    | exact Option.noConfusion h
    | (cases h; constructor <;> (first
        | (dsimp only [_w65816_asl] <;>
           repeat' (first | apply ite_irq_of | apply ite_nmi_of | apply ite_fst_irq_of | apply ite_fst_nmi_of | rfl))
        | rfl))

theorem op_0F_pips (step : Nat) (c : w65816_t) (pins : Nat) (r : w65816_t × Nat)
    (h : op_0F step c pins = some r) : r.1.irq_pip = c.irq_pip ∧ r.1.nmi_pip = c.nmi_pip := by
  unfold op_0F at h
  split at h <;> first
    | exact Option.noConfusion h
    | (cases h; constructor <;> (first
        | (dsimp only [set_A, _NZ] <;>
           repeat' (first | apply ite_irq_of | apply ite_nmi_of | apply ite_fst_irq_of | apply ite_fst_nmi_of | rfl))
        | rfl))

theorem op_10_pips (step : Nat) (c : w65816_t) (pins : Nat) (r : w65816_t × Nat)
    (h : op_10 step c pins = some r) :
    (step = 2 ∧ (c.AD &&& 0xFF00) = (c.PC &&& 0xFF00) →
      r.1.irq_pip = c.irq_pip >>> 1 ∧ r.1.nmi_pip = c.nmi_pip >>> 1) ∧
    (¬ (step = 2 ∧ (c.AD &&& 0xFF00) = (c.PC &&& 0xFF00)) →
      r.1.irq_pip = c.irq_pip ∧ r.1.nmi_pip = c.nmi_pip) := by
  unfold op_10 at h
  split at h
  · cases h; exact ⟨fun hh => absurd hh.1 (by decide), fun _ => ⟨rfl, rfl⟩⟩
  · cases h; exact ⟨fun hh => absurd hh.1 (by decide), fun _ => ⟨rfl, rfl⟩⟩
  · cases h
    by_cases hp : (c.AD &&& 0xFF00) = (c.PC &&& 0xFF00)
    · refine ⟨fun _ => ?_, fun hh => absurd ⟨rfl, hp⟩ hh⟩
      dsimp only []
      rw [if_pos hp]
      exact ⟨rfl, rfl⟩
    · refine ⟨fun hh => absurd hh.2 hp, fun _ => ?_⟩
      dsimp only []
      rw [if_neg hp]
      exact ⟨rfl, rfl⟩
  · cases h; exact ⟨fun hh => absurd hh.1 (by decide), fun _ => ⟨rfl, rfl⟩⟩
  · exact Option.noConfusion h

theorem op_11_pips (step : Nat) (c : w65816_t) (pins : Nat) (r : w65816_t × Nat)
    (h : op_11 step c pins = some r) : r.1.irq_pip = c.irq_pip ∧ r.1.nmi_pip = c.nmi_pip := by
  unfold op_11 at h
  split at h <;> first
    | exact Option.noConfusion h
    | (cases h; constructor <;> (first
        | (dsimp only [set_A, _NZ] <;>
           repeat' (first | apply ite_irq_of | apply ite_nmi_of | apply ite_fst_irq_of | apply ite_fst_nmi_of | rfl))
        | rfl))

theorem op_12_pips (step : Nat) (c : w65816_t) (pins : Nat) (r : w65816_t × Nat)
    (h : op_12 step c pins = some r) : r.1.irq_pip = c.irq_pip ∧ r.1.nmi_pip = c.nmi_pip := by
  unfold op_12 at h
  split at h <;> first
    | exact Option.noConfusion h
    | (cases h; constructor <;> (first
        | (dsimp only [set_A, _NZ] <;>
           repeat' (first | apply ite_irq_of | apply ite_nmi_of | apply ite_fst_irq_of | apply ite_fst_nmi_of | rfl))
        | rfl))

theorem op_13_pips (step : Nat) (c : w65816_t) (pins : Nat) (r : w65816_t × Nat)
    (h : op_13 step c pins = some r) : r.1.irq_pip = c.irq_pip ∧ r.1.nmi_pip = c.nmi_pip := by
  unfold op_13 at h
  split at h <;> first
    | exact Option.noConfusion h
    | (cases h; constructor <;> (first
        | (dsimp only [set_A, _NZ] <;>
           repeat' (first | apply ite_irq_of | apply ite_nmi_of | apply ite_fst_irq_of | apply ite_fst_nmi_of | rfl))
        | rfl))

theorem op_14_pips (step : Nat) (c : w65816_t) (pins : Nat) (r : w65816_t × Nat)
    (h : op_14 step c pins = some r) : r.1.irq_pip = c.irq_pip ∧ r.1.nmi_pip = c.nmi_pip := by
  unfold op_14 at h
  split at h <;> first
    | exact Option.noConfusion h
    | (cases h; constructor <;> (first
        | (dsimp only [_Z] <;>
           repeat' (first | apply ite_irq_of | apply ite_nmi_of | apply ite_fst_irq_of | apply ite_fst_nmi_of | rfl))
        | rfl))

theorem op_15_pips (step : Nat) (c : w65816_t) (pins : Nat) (r : w65816_t × Nat)
    (h : op_15 step c pins = some r) : r.1.irq_pip = c.irq_pip ∧ r.1.nmi_pip = c.nmi_pip := by
  unfold op_15 at h
  split at h <;> first
    | exact Option.noConfusion h
    | (cases h; constructor <;> (first
        | (dsimp only [set_A, _NZ] <;>
           repeat' (first | apply ite_irq_of | apply ite_nmi_of | apply ite_fst_irq_of | apply ite_fst_nmi_of | rfl))
        | rfl))

theorem op_16_pips (step : Nat) (c : w65816_t) (pins : Nat) (r : w65816_t × Nat)
    (h : op_16 step c pins = some r) : r.1.irq_pip = c.irq_pip ∧ r.1.nmi_pip = c.nmi_pip := by
  unfold op_16 at h
  split at h <;> first
    | exact Option.noConfusion h
    | (cases h; constructor <;> (first
        | (dsimp only [_w65816_asl] <;>
           repeat' (first | apply ite_irq_of | apply ite_nmi_of | apply ite_fst_irq_of | apply ite_fst_nmi_of | rfl))
        | rfl))

theorem op_17_pips (step : Nat) (c : w65816_t) (pins : Nat) (r : w65816_t × Nat)
    (h : op_17 step c pins = some r) : r.1.irq_pip = c.irq_pip ∧ r.1.nmi_pip = c.nmi_pip := by
  unfold op_17 at h
  split at h <;> first
    | exact Option.noConfusion h
    | (cases h; constructor <;> (first
        | (dsimp only [set_A, _NZ] <;>
           repeat' (first | apply ite_irq_of | apply ite_nmi_of | apply ite_fst_irq_of | apply ite_fst_nmi_of | rfl))
        | rfl))

theorem op_18_pips (step : Nat) (c : w65816_t) (pins : Nat) (r : w65816_t × Nat)
    (h : op_18 step c pins = some r) : r.1.irq_pip = c.irq_pip ∧ r.1.nmi_pip = c.nmi_pip := by
  unfold op_18 at h
  split at h <;> first
    | exact Option.noConfusion h
    | (cases h; constructor <;> (first
        | (dsimp only [] <;>
           repeat' (first | apply ite_irq_of | apply ite_nmi_of | apply ite_fst_irq_of | apply ite_fst_nmi_of | rfl))
        | rfl))

theorem op_19_pips (step : Nat) (c : w65816_t) (pins : Nat) (r : w65816_t × Nat)
    (h : op_19 step c pins = some r) : r.1.irq_pip = c.irq_pip ∧ r.1.nmi_pip = c.nmi_pip := by
  unfold op_19 at h
  split at h <;> first
    | exact Option.noConfusion h
    | (cases h; constructor <;> (first
        | (dsimp only [set_A, _NZ] <;>
           repeat' (first | apply ite_irq_of | apply ite_nmi_of | apply ite_fst_irq_of | apply ite_fst_nmi_of | rfl))
        | rfl))

theorem op_1A_pips (step : Nat) (c : w65816_t) (pins : Nat) (r : w65816_t × Nat)
    (h : op_1A step c pins = some r) : r.1.irq_pip = c.irq_pip ∧ r.1.nmi_pip = c.nmi_pip := by
  unfold op_1A at h
  split at h <;> first
    | exact Option.noConfusion h
    | (cases h; constructor <;> (first
        | (dsimp only [set_A, _NZ] <;>
           repeat' (first | apply ite_irq_of | apply ite_nmi_of | apply ite_fst_irq_of | apply ite_fst_nmi_of | rfl))
        | rfl))

theorem op_1B_pips (step : Nat) (c : w65816_t) (pins : Nat) (r : w65816_t × Nat)
    (h : op_1B step c pins = some r) : r.1.irq_pip = c.irq_pip ∧ r.1.nmi_pip = c.nmi_pip := by
  unfold op_1B at h
  split at h <;> first
    | exact Option.noConfusion h
    | (cases h; constructor <;> (first
        | (dsimp only [] <;>
           repeat' (first | apply ite_irq_of | apply ite_nmi_of | apply ite_fst_irq_of | apply ite_fst_nmi_of | rfl))
        | rfl))

theorem op_1C_pips (step : Nat) (c : w65816_t) (pins : Nat) (r : w65816_t × Nat)
    (h : op_1C step c pins = some r) : r.1.irq_pip = c.irq_pip ∧ r.1.nmi_pip = c.nmi_pip := by
  unfold op_1C at h
  split at h <;> first
    | exact Option.noConfusion h
    | (cases h; constructor <;> (first
        | (dsimp only [_Z] <;>
           repeat' (first | apply ite_irq_of | apply ite_nmi_of | apply ite_fst_irq_of | apply ite_fst_nmi_of | rfl))
        | rfl))

theorem op_1D_pips (step : Nat) (c : w65816_t) (pins : Nat) (r : w65816_t × Nat)
    (h : op_1D step c pins = some r) : r.1.irq_pip = c.irq_pip ∧ r.1.nmi_pip = c.nmi_pip := by
  unfold op_1D at h
  split at h <;> first
    | exact Option.noConfusion h
    | (cases h; constructor <;> (first
        | (dsimp only [set_A, _NZ] <;>
           repeat' (first | apply ite_irq_of | apply ite_nmi_of | apply ite_fst_irq_of | apply ite_fst_nmi_of | rfl))
        | rfl))

theorem op_1E_pips (step : Nat) (c : w65816_t) (pins : Nat) (r : w65816_t × Nat)
    (h : op_1E step c pins = some r) : r.1.irq_pip = c.irq_pip ∧ r.1.nmi_pip = c.nmi_pip := by
  unfold op_1E at h
  split at h <;> first
    | exact Option.noConfusion h
    | (cases h; constructor <;> (first
        | (dsimp only [_w65816_asl] <;>
           repeat' (first | apply ite_irq_of | apply ite_nmi_of | apply ite_fst_irq_of | apply ite_fst_nmi_of | rfl))
        | rfl))

theorem op_1F_pips (step : Nat) (c : w65816_t) (pins : Nat) (r : w65816_t × Nat)
    (h : op_1F step c pins = some r) : r.1.irq_pip = c.irq_pip ∧ r.1.nmi_pip = c.nmi_pip := by
  unfold op_1F at h
  split at h <;> first
    | exact Option.noConfusion h
    | (cases h; constructor <;> (first
        | (dsimp only [set_A, _NZ] <;>
           repeat' (first | apply ite_irq_of | apply ite_nmi_of | apply ite_fst_irq_of | apply ite_fst_nmi_of | rfl))
        | rfl))

theorem op_20_pips (step : Nat) (c : w65816_t) (pins : Nat) (r : w65816_t × Nat)
    (h : op_20 step c pins = some r) : r.1.irq_pip = c.irq_pip ∧ r.1.nmi_pip = c.nmi_pip := by
  unfold op_20 at h
  split at h <;> first
    | exact Option.noConfusion h
    | (cases h; constructor <;> (first
        | (dsimp only [set_S] <;>
           repeat' (first | apply ite_irq_of | apply ite_nmi_of | apply ite_fst_irq_of | apply ite_fst_nmi_of | rfl))
        | rfl))

theorem op_21_pips (step : Nat) (c : w65816_t) (pins : Nat) (r : w65816_t × Nat)
    (h : op_21 step c pins = some r) : r.1.irq_pip = c.irq_pip ∧ r.1.nmi_pip = c.nmi_pip := by
  unfold op_21 at h
  split at h <;> first
    | exact Option.noConfusion h
    | (cases h; constructor <;> (first
        | (dsimp only [set_A, _NZ] <;>
           repeat' (first | apply ite_irq_of | apply ite_nmi_of | apply ite_fst_irq_of | apply ite_fst_nmi_of | rfl))
        | rfl))

theorem op_22_pips (step : Nat) (c : w65816_t) (pins : Nat) (r : w65816_t × Nat)
    (h : op_22 step c pins = some r) : r.1.irq_pip = c.irq_pip ∧ r.1.nmi_pip = c.nmi_pip := by
  unfold op_22 at h
  split at h <;> first
    | exact Option.noConfusion h
    | (cases h; constructor <;> (first
        | (dsimp only [] <;>
           repeat' (first | apply ite_irq_of | apply ite_nmi_of | apply ite_fst_irq_of | apply ite_fst_nmi_of | rfl))
        | rfl))

theorem op_23_pips (step : Nat) (c : w65816_t) (pins : Nat) (r : w65816_t × Nat)
    (h : op_23 step c pins = some r) : r.1.irq_pip = c.irq_pip ∧ r.1.nmi_pip = c.nmi_pip := by
  unfold op_23 at h
  split at h <;> first
    | exact Option.noConfusion h
    | (cases h; constructor <;> (first
        | (dsimp only [set_A, _NZ] <;>
           repeat' (first | apply ite_irq_of | apply ite_nmi_of | apply ite_fst_irq_of | apply ite_fst_nmi_of | rfl))
        | rfl))

theorem op_24_pips (step : Nat) (c : w65816_t) (pins : Nat) (r : w65816_t × Nat)
    (h : op_24 step c pins = some r) : r.1.irq_pip = c.irq_pip ∧ r.1.nmi_pip = c.nmi_pip := by
  unfold op_24 at h
  split at h <;> first
    | exact Option.noConfusion h
    | (cases h; constructor <;> (first
        | (dsimp only [] <;>
           repeat' (first | apply ite_irq_of | apply ite_nmi_of | apply ite_fst_irq_of | apply ite_fst_nmi_of | apply bit_irq | apply bit_nmi | rfl))
        | rfl))

theorem op_25_pips (step : Nat) (c : w65816_t) (pins : Nat) (r : w65816_t × Nat)
    (h : op_25 step c pins = some r) : r.1.irq_pip = c.irq_pip ∧ r.1.nmi_pip = c.nmi_pip := by
  unfold op_25 at h
  split at h <;> first
    | exact Option.noConfusion h
    | (cases h; constructor <;> (first
        | (dsimp only [set_A, _NZ] <;>
           repeat' (first | apply ite_irq_of | apply ite_nmi_of | apply ite_fst_irq_of | apply ite_fst_nmi_of | rfl))
        | rfl))

theorem op_26_pips (step : Nat) (c : w65816_t) (pins : Nat) (r : w65816_t × Nat)
    (h : op_26 step c pins = some r) : r.1.irq_pip = c.irq_pip ∧ r.1.nmi_pip = c.nmi_pip := by
  unfold op_26 at h
  split at h <;> first
    | exact Option.noConfusion h
    | (cases h; constructor <;> (first
        | (dsimp only [] <;>
           repeat' (first | apply ite_irq_of | apply ite_nmi_of | apply ite_fst_irq_of | apply ite_fst_nmi_of | apply rol_irq | apply rol_nmi | rfl))
        | rfl))

theorem op_27_pips (step : Nat) (c : w65816_t) (pins : Nat) (r : w65816_t × Nat)
    (h : op_27 step c pins = some r) : r.1.irq_pip = c.irq_pip ∧ r.1.nmi_pip = c.nmi_pip := by
  unfold op_27 at h
  split at h <;> first
    | exact Option.noConfusion h
    | (cases h; constructor <;> (first
        | (dsimp only [set_A, _NZ] <;>
           repeat' (first | apply ite_irq_of | apply ite_nmi_of | apply ite_fst_irq_of | apply ite_fst_nmi_of | rfl))
        | rfl))

theorem op_28_pips (step : Nat) (c : w65816_t) (pins : Nat) (r : w65816_t × Nat)
    (h : op_28 step c pins = some r) : r.1.irq_pip = c.irq_pip ∧ r.1.nmi_pip = c.nmi_pip := by
  unfold op_28 at h
  split at h <;> first
    | exact Option.noConfusion h
    | (cases h; constructor <;> (first
        | (dsimp only [set_S] <;>
           repeat' (first | apply ite_irq_of | apply ite_nmi_of | apply ite_fst_irq_of | apply ite_fst_nmi_of | rfl))
        | rfl))

theorem op_29_pips (step : Nat) (c : w65816_t) (pins : Nat) (r : w65816_t × Nat)
    (h : op_29 step c pins = some r) : r.1.irq_pip = c.irq_pip ∧ r.1.nmi_pip = c.nmi_pip := by
  unfold op_29 at h
  split at h <;> first
    | exact Option.noConfusion h
    | (cases h; constructor <;> (first
        | (dsimp only [set_A, _NZ] <;>
           repeat' (first | apply ite_irq_of | apply ite_nmi_of | apply ite_fst_irq_of | apply ite_fst_nmi_of | rfl))
        | rfl))

theorem op_2A_pips (step : Nat) (c : w65816_t) (pins : Nat) (r : w65816_t × Nat)
    (h : op_2A step c pins = some r) : r.1.irq_pip = c.irq_pip ∧ r.1.nmi_pip = c.nmi_pip := by
  unfold op_2A at h
  split at h <;> first
    | exact Option.noConfusion h
    | (cases h; constructor <;> (first
        | (dsimp only [set_A] <;>
           repeat' (first | apply ite_irq_of | apply ite_nmi_of | apply ite_fst_irq_of | apply ite_fst_nmi_of | apply rol_irq | apply rol_nmi | rfl))
        | rfl))

theorem op_2B_pips (step : Nat) (c : w65816_t) (pins : Nat) (r : w65816_t × Nat)
    (h : op_2B step c pins = some r) : r.1.irq_pip = c.irq_pip ∧ r.1.nmi_pip = c.nmi_pip := by
  unfold op_2B at h
  split at h <;> first
    | exact Option.noConfusion h
    | (cases h; constructor <;> (first
        | (dsimp only [set_S] <;>
           repeat' (first | apply ite_irq_of | apply ite_nmi_of | apply ite_fst_irq_of | apply ite_fst_nmi_of | rfl))
        | rfl))

theorem op_2C_pips (step : Nat) (c : w65816_t) (pins : Nat) (r : w65816_t × Nat)
    (h : op_2C step c pins = some r) : r.1.irq_pip = c.irq_pip ∧ r.1.nmi_pip = c.nmi_pip := by
  unfold op_2C at h
  split at h <;> first
    | exact Option.noConfusion h
    | (cases h; constructor <;> (first
        | (dsimp only [] <;>
           repeat' (first | apply ite_irq_of | apply ite_nmi_of | apply ite_fst_irq_of | apply ite_fst_nmi_of | apply bit_irq | apply bit_nmi | rfl))
        | rfl))

theorem op_2D_pips (step : Nat) (c : w65816_t) (pins : Nat) (r : w65816_t × Nat)
    (h : op_2D step c pins = some r) : r.1.irq_pip = c.irq_pip ∧ r.1.nmi_pip = c.nmi_pip := by
  unfold op_2D at h
  split at h <;> first
    | exact Option.noConfusion h
    | (cases h; constructor <;> (first
        | (dsimp only [set_A, _NZ] <;>
           repeat' (first | apply ite_irq_of | apply ite_nmi_of | apply ite_fst_irq_of | apply ite_fst_nmi_of | rfl))
        | rfl))

theorem op_2E_pips (step : Nat) (c : w65816_t) (pins : Nat) (r : w65816_t × Nat)
    (h : op_2E step c pins = some r) : r.1.irq_pip = c.irq_pip ∧ r.1.nmi_pip = c.nmi_pip := by
  unfold op_2E at h
  split at h <;> first
    | exact Option.noConfusion h
    | (cases h; constructor <;> (first
        | (dsimp only [] <;>
           repeat' (first | apply ite_irq_of | apply ite_nmi_of | apply ite_fst_irq_of | apply ite_fst_nmi_of | apply rol_irq | apply rol_nmi | rfl))
        | rfl))

theorem op_2F_pips (step : Nat) (c : w65816_t) (pins : Nat) (r : w65816_t × Nat)
    (h : op_2F step c pins = some r) : r.1.irq_pip = c.irq_pip ∧ r.1.nmi_pip = c.nmi_pip := by
  unfold op_2F at h
  split at h <;> first
    | exact Option.noConfusion h
    | (cases h; constructor <;> (first
        | (dsimp only [set_A, _NZ] <;>
           repeat' (first | apply ite_irq_of | apply ite_nmi_of | apply ite_fst_irq_of | apply ite_fst_nmi_of | rfl))
        | rfl))

theorem op_30_pips (step : Nat) (c : w65816_t) (pins : Nat) (r : w65816_t × Nat)
    (h : op_30 step c pins = some r) :
    (step = 2 ∧ (c.AD &&& 0xFF00) = (c.PC &&& 0xFF00) →
      r.1.irq_pip = c.irq_pip >>> 1 ∧ r.1.nmi_pip = c.nmi_pip >>> 1) ∧
    (¬ (step = 2 ∧ (c.AD &&& 0xFF00) = (c.PC &&& 0xFF00)) →
      r.1.irq_pip = c.irq_pip ∧ r.1.nmi_pip = c.nmi_pip) := by
  unfold op_30 at h
  split at h
  · cases h; exact ⟨fun hh => absurd hh.1 (by decide), fun _ => ⟨rfl, rfl⟩⟩
  · cases h; exact ⟨fun hh => absurd hh.1 (by decide), fun _ => ⟨rfl, rfl⟩⟩
  · cases h
    by_cases hp : (c.AD &&& 0xFF00) = (c.PC &&& 0xFF00)
    · refine ⟨fun _ => ?_, fun hh => absurd ⟨rfl, hp⟩ hh⟩
      dsimp only []
      rw [if_pos hp]
      exact ⟨rfl, rfl⟩
    · refine ⟨fun hh => absurd hh.2 hp, fun _ => ?_⟩
      dsimp only []
      rw [if_neg hp]
      exact ⟨rfl, rfl⟩
  · cases h; exact ⟨fun hh => absurd hh.1 (by decide), fun _ => ⟨rfl, rfl⟩⟩
  · exact Option.noConfusion h

theorem op_31_pips (step : Nat) (c : w65816_t) (pins : Nat) (r : w65816_t × Nat)
    (h : op_31 step c pins = some r) : r.1.irq_pip = c.irq_pip ∧ r.1.nmi_pip = c.nmi_pip := by
  unfold op_31 at h
  split at h <;> first
    | exact Option.noConfusion h
    | (cases h; constructor <;> (first
        | (dsimp only [set_A, _NZ] <;>
           repeat' (first | apply ite_irq_of | apply ite_nmi_of | apply ite_fst_irq_of | apply ite_fst_nmi_of | rfl))
        | rfl))

theorem op_32_pips (step : Nat) (c : w65816_t) (pins : Nat) (r : w65816_t × Nat)
    (h : op_32 step c pins = some r) : r.1.irq_pip = c.irq_pip ∧ r.1.nmi_pip = c.nmi_pip := by
  unfold op_32 at h
  split at h <;> first
    | exact Option.noConfusion h
    | (cases h; constructor <;> (first
        | (dsimp only [set_A, _NZ] <;>
           repeat' (first | apply ite_irq_of | apply ite_nmi_of | apply ite_fst_irq_of | apply ite_fst_nmi_of | rfl))
        | rfl))

theorem op_33_pips (step : Nat) (c : w65816_t) (pins : Nat) (r : w65816_t × Nat)
    (h : op_33 step c pins = some r) : r.1.irq_pip = c.irq_pip ∧ r.1.nmi_pip = c.nmi_pip := by
  unfold op_33 at h
  split at h <;> first
    | exact Option.noConfusion h
    | (cases h; constructor <;> (first
        | (dsimp only [set_A, _NZ] <;>
           repeat' (first | apply ite_irq_of | apply ite_nmi_of | apply ite_fst_irq_of | apply ite_fst_nmi_of | rfl))
        | rfl))

theorem op_34_pips (step : Nat) (c : w65816_t) (pins : Nat) (r : w65816_t × Nat)
    (h : op_34 step c pins = some r) : r.1.irq_pip = c.irq_pip ∧ r.1.nmi_pip = c.nmi_pip := by
  unfold op_34 at h
  split at h <;> first
    | exact Option.noConfusion h
    | (cases h; constructor <;> (first
        | (dsimp only [] <;>
           repeat' (first | apply ite_irq_of | apply ite_nmi_of | apply ite_fst_irq_of | apply ite_fst_nmi_of | apply bit_irq | apply bit_nmi | rfl))
        | rfl))

theorem op_35_pips (step : Nat) (c : w65816_t) (pins : Nat) (r : w65816_t × Nat)
    (h : op_35 step c pins = some r) : r.1.irq_pip = c.irq_pip ∧ r.1.nmi_pip = c.nmi_pip := by
  unfold op_35 at h
  split at h <;> first
    | exact Option.noConfusion h
    | (cases h; constructor <;> (first
        | (dsimp only [set_A, _NZ] <;>
           repeat' (first | apply ite_irq_of | apply ite_nmi_of | apply ite_fst_irq_of | apply ite_fst_nmi_of | rfl))
        | rfl))

theorem op_36_pips (step : Nat) (c : w65816_t) (pins : Nat) (r : w65816_t × Nat)
    (h : op_36 step c pins = some r) : r.1.irq_pip = c.irq_pip ∧ r.1.nmi_pip = c.nmi_pip := by
  unfold op_36 at h
  split at h <;> first
    | exact Option.noConfusion h
    | (cases h; constructor <;> (first
        | (dsimp only [] <;>
           repeat' (first | apply ite_irq_of | apply ite_nmi_of | apply ite_fst_irq_of | apply ite_fst_nmi_of | apply rol_irq | apply rol_nmi | rfl))
        | rfl))

theorem op_37_pips (step : Nat) (c : w65816_t) (pins : Nat) (r : w65816_t × Nat)
    (h : op_37 step c pins = some r) : r.1.irq_pip = c.irq_pip ∧ r.1.nmi_pip = c.nmi_pip := by
  unfold op_37 at h
  split at h <;> first
    | exact Option.noConfusion h
    | (cases h; constructor <;> (first
        | (dsimp only [set_A, _NZ] <;>
           repeat' (first | apply ite_irq_of | apply ite_nmi_of | apply ite_fst_irq_of | apply ite_fst_nmi_of | rfl))
        | rfl))

theorem op_38_pips (step : Nat) (c : w65816_t) (pins : Nat) (r : w65816_t × Nat)
    (h : op_38 step c pins = some r) : r.1.irq_pip = c.irq_pip ∧ r.1.nmi_pip = c.nmi_pip := by
  unfold op_38 at h
  split at h <;> first
    | exact Option.noConfusion h
    | (cases h; constructor <;> (first
        | (dsimp only [] <;>
           repeat' (first | apply ite_irq_of | apply ite_nmi_of | apply ite_fst_irq_of | apply ite_fst_nmi_of | rfl))
        | rfl))

theorem op_39_pips (step : Nat) (c : w65816_t) (pins : Nat) (r : w65816_t × Nat)
    (h : op_39 step c pins = some r) : r.1.irq_pip = c.irq_pip ∧ r.1.nmi_pip = c.nmi_pip := by
  unfold op_39 at h
  split at h <;> first
    | exact Option.noConfusion h
    | (cases h; constructor <;> (first
        | (dsimp only [set_A, _NZ] <;>
           repeat' (first | apply ite_irq_of | apply ite_nmi_of | apply ite_fst_irq_of | apply ite_fst_nmi_of | rfl))
        | rfl))

theorem op_3A_pips (step : Nat) (c : w65816_t) (pins : Nat) (r : w65816_t × Nat)
    (h : op_3A step c pins = some r) : r.1.irq_pip = c.irq_pip ∧ r.1.nmi_pip = c.nmi_pip := by
  unfold op_3A at h
  split at h <;> first
    | exact Option.noConfusion h
    | (cases h; constructor <;> (first
        | (dsimp only [set_A, _NZ] <;>
           repeat' (first | apply ite_irq_of | apply ite_nmi_of | apply ite_fst_irq_of | apply ite_fst_nmi_of | rfl))
        | rfl))

theorem op_3B_pips (step : Nat) (c : w65816_t) (pins : Nat) (r : w65816_t × Nat)
    (h : op_3B step c pins = some r) : r.1.irq_pip = c.irq_pip ∧ r.1.nmi_pip = c.nmi_pip := by
  unfold op_3B at h
  split at h <;> first
    | exact Option.noConfusion h
    | (cases h; constructor <;> (first
        | (dsimp only [_NZ] <;>
           repeat' (first | apply ite_irq_of | apply ite_nmi_of | apply ite_fst_irq_of | apply ite_fst_nmi_of | rfl))
        | rfl))

theorem op_3C_pips (step : Nat) (c : w65816_t) (pins : Nat) (r : w65816_t × Nat)
    (h : op_3C step c pins = some r) : r.1.irq_pip = c.irq_pip ∧ r.1.nmi_pip = c.nmi_pip := by
  unfold op_3C at h
  split at h <;> first
    | exact Option.noConfusion h
    | (cases h; constructor <;> (first
        | (dsimp only [] <;>
           repeat' (first | apply ite_irq_of | apply ite_nmi_of | apply ite_fst_irq_of | apply ite_fst_nmi_of | apply bit_irq | apply bit_nmi | rfl))
        | rfl))

theorem op_3D_pips (step : Nat) (c : w65816_t) (pins : Nat) (r : w65816_t × Nat)
    (h : op_3D step c pins = some r) : r.1.irq_pip = c.irq_pip ∧ r.1.nmi_pip = c.nmi_pip := by
  unfold op_3D at h
  split at h <;> first
    | exact Option.noConfusion h
    | (cases h; constructor <;> (first
        | (dsimp only [set_A, _NZ] <;>
           repeat' (first | apply ite_irq_of | apply ite_nmi_of | apply ite_fst_irq_of | apply ite_fst_nmi_of | rfl))
        | rfl))

theorem op_3E_pips (step : Nat) (c : w65816_t) (pins : Nat) (r : w65816_t × Nat)
    (h : op_3E step c pins = some r) : r.1.irq_pip = c.irq_pip ∧ r.1.nmi_pip = c.nmi_pip := by
  unfold op_3E at h
  split at h <;> first
    | exact Option.noConfusion h
    | (cases h; constructor <;> (first
        | (dsimp only [] <;>
           repeat' (first | apply ite_irq_of | apply ite_nmi_of | apply ite_fst_irq_of | apply ite_fst_nmi_of | apply rol_irq | apply rol_nmi | rfl))
        | rfl))

theorem op_3F_pips (step : Nat) (c : w65816_t) (pins : Nat) (r : w65816_t × Nat)
    (h : op_3F step c pins = some r) : r.1.irq_pip = c.irq_pip ∧ r.1.nmi_pip = c.nmi_pip := by
  unfold op_3F at h
  split at h <;> first
    | exact Option.noConfusion h
    | (cases h; constructor <;> (first
        | (dsimp only [set_A, _NZ] <;>
           repeat' (first | apply ite_irq_of | apply ite_nmi_of | apply ite_fst_irq_of | apply ite_fst_nmi_of | rfl))
        | rfl))

theorem op_40_pips (step : Nat) (c : w65816_t) (pins : Nat) (r : w65816_t × Nat)
    (h : op_40 step c pins = some r) : r.1.irq_pip = c.irq_pip ∧ r.1.nmi_pip = c.nmi_pip := by
  unfold op_40 at h
  split at h <;> first
    | exact Option.noConfusion h
    | (cases h; constructor <;> (first
        | (dsimp only [set_S] <;>
           repeat' (first | apply ite_irq_of | apply ite_nmi_of | apply ite_fst_irq_of | apply ite_fst_nmi_of | rfl))
        | rfl))

theorem op_41_pips (step : Nat) (c : w65816_t) (pins : Nat) (r : w65816_t × Nat)
    (h : op_41 step c pins = some r) : r.1.irq_pip = c.irq_pip ∧ r.1.nmi_pip = c.nmi_pip := by
  unfold op_41 at h
  split at h <;> first
    | exact Option.noConfusion h
    | (cases h; constructor <;> (first
        | (dsimp only [set_A, _NZ] <;>
           repeat' (first | apply ite_irq_of | apply ite_nmi_of | apply ite_fst_irq_of | apply ite_fst_nmi_of | rfl))
        | rfl))

theorem op_42_pips (step : Nat) (c : w65816_t) (pins : Nat) (r : w65816_t × Nat)
    (h : op_42 step c pins = some r) : r.1.irq_pip = c.irq_pip ∧ r.1.nmi_pip = c.nmi_pip := by
  unfold op_42 at h
  split at h <;> first
    | exact Option.noConfusion h
    | (cases h; constructor <;> (first
        | (dsimp only [] <;>
           repeat' (first | apply ite_irq_of | apply ite_nmi_of | apply ite_fst_irq_of | apply ite_fst_nmi_of | rfl))
        | rfl))

theorem op_43_pips (step : Nat) (c : w65816_t) (pins : Nat) (r : w65816_t × Nat)
    (h : op_43 step c pins = some r) : r.1.irq_pip = c.irq_pip ∧ r.1.nmi_pip = c.nmi_pip := by
  unfold op_43 at h
  split at h <;> first
    | exact Option.noConfusion h
    | (cases h; constructor <;> (first
        | (dsimp only [set_A, _NZ] <;>
           repeat' (first | apply ite_irq_of | apply ite_nmi_of | apply ite_fst_irq_of | apply ite_fst_nmi_of | rfl))
        | rfl))

theorem op_44_pips (step : Nat) (c : w65816_t) (pins : Nat) (r : w65816_t × Nat)
    (h : op_44 step c pins = some r) : r.1.irq_pip = c.irq_pip ∧ r.1.nmi_pip = c.nmi_pip := by
  unfold op_44 at h
  split at h
  · cases h
    constructor <;> (first
        | (dsimp only [] <;>
           repeat' (first | apply ite_irq_of | apply ite_nmi_of | apply ite_fst_irq_of | apply ite_fst_nmi_of | rfl))
        | rfl)
  · cases h
    constructor <;> (first
        | (dsimp only [] <;>
           repeat' (first | apply ite_irq_of | apply ite_nmi_of | apply ite_fst_irq_of | apply ite_fst_nmi_of | rfl))
        | rfl)
  · cases h
    exact dec_X_pips c _ _
  · cases h
    exact dec_Y_pips c _ _
  · cases h
    constructor <;> (first
        | (dsimp only [] <;>
           repeat' (first | apply ite_irq_of | apply ite_nmi_of | apply ite_fst_irq_of | apply ite_fst_nmi_of | rfl))
        | rfl)
  · cases h
    constructor <;> (first
        | (dsimp only [] <;>
           repeat' (first | apply ite_irq_of | apply ite_nmi_of | apply ite_fst_irq_of | apply ite_fst_nmi_of | rfl))
        | rfl)
  · cases h
    constructor <;> (first
        | (dsimp only [] <;>
           repeat' (first | apply ite_irq_of | apply ite_nmi_of | apply ite_fst_irq_of | apply ite_fst_nmi_of | rfl))
        | rfl)
  · exact Option.noConfusion h

theorem op_45_pips (step : Nat) (c : w65816_t) (pins : Nat) (r : w65816_t × Nat)
    (h : op_45 step c pins = some r) : r.1.irq_pip = c.irq_pip ∧ r.1.nmi_pip = c.nmi_pip := by
  unfold op_45 at h
  split at h <;> first
    | exact Option.noConfusion h
    | (cases h; constructor <;> (first
        | (dsimp only [set_A, _NZ] <;>
           repeat' (first | apply ite_irq_of | apply ite_nmi_of | apply ite_fst_irq_of | apply ite_fst_nmi_of | rfl))
        | rfl))

theorem op_46_pips (step : Nat) (c : w65816_t) (pins : Nat) (r : w65816_t × Nat)
    (h : op_46 step c pins = some r) : r.1.irq_pip = c.irq_pip ∧ r.1.nmi_pip = c.nmi_pip := by
  unfold op_46 at h
  split at h <;> first
    | exact Option.noConfusion h
    | (cases h; constructor <;> (first
        | (dsimp only [_w65816_lsr] <;>
           repeat' (first | apply ite_irq_of | apply ite_nmi_of | apply ite_fst_irq_of | apply ite_fst_nmi_of | rfl))
        | rfl))

theorem op_47_pips (step : Nat) (c : w65816_t) (pins : Nat) (r : w65816_t × Nat)
    (h : op_47 step c pins = some r) : r.1.irq_pip = c.irq_pip ∧ r.1.nmi_pip = c.nmi_pip := by
  unfold op_47 at h
  split at h <;> first
    | exact Option.noConfusion h
    | (cases h; constructor <;> (first
        | (dsimp only [set_A, _NZ] <;>
           repeat' (first | apply ite_irq_of | apply ite_nmi_of | apply ite_fst_irq_of | apply ite_fst_nmi_of | rfl))
        | rfl))

theorem op_48_pips (step : Nat) (c : w65816_t) (pins : Nat) (r : w65816_t × Nat)
    (h : op_48 step c pins = some r) : r.1.irq_pip = c.irq_pip ∧ r.1.nmi_pip = c.nmi_pip := by
  unfold op_48 at h
  split at h <;> first
    | exact Option.noConfusion h
    | (cases h; constructor <;> (first
        | (dsimp only [set_S] <;>
           repeat' (first | apply ite_irq_of | apply ite_nmi_of | apply ite_fst_irq_of | apply ite_fst_nmi_of | rfl))
        | rfl))

theorem op_49_pips (step : Nat) (c : w65816_t) (pins : Nat) (r : w65816_t × Nat)
    (h : op_49 step c pins = some r) : r.1.irq_pip = c.irq_pip ∧ r.1.nmi_pip = c.nmi_pip := by
  unfold op_49 at h
  split at h <;> first
    | exact Option.noConfusion h
    | (cases h; constructor <;> (first
        | (dsimp only [set_A, _NZ] <;>
           repeat' (first | apply ite_irq_of | apply ite_nmi_of | apply ite_fst_irq_of | apply ite_fst_nmi_of | rfl))
        | rfl))

theorem op_4A_pips (step : Nat) (c : w65816_t) (pins : Nat) (r : w65816_t × Nat)
    (h : op_4A step c pins = some r) : r.1.irq_pip = c.irq_pip ∧ r.1.nmi_pip = c.nmi_pip := by
  unfold op_4A at h
  split at h <;> first
    | exact Option.noConfusion h
    | (cases h; constructor <;> (first
        | (dsimp only [set_A, _w65816_lsr] <;>
           repeat' (first | apply ite_irq_of | apply ite_nmi_of | apply ite_fst_irq_of | apply ite_fst_nmi_of | rfl))
        | rfl))

theorem op_4B_pips (step : Nat) (c : w65816_t) (pins : Nat) (r : w65816_t × Nat)
    (h : op_4B step c pins = some r) : r.1.irq_pip = c.irq_pip ∧ r.1.nmi_pip = c.nmi_pip := by
  unfold op_4B at h
  split at h <;> first
    | exact Option.noConfusion h
    | (cases h; constructor <;> (first
        | (dsimp only [set_S] <;>
           repeat' (first | apply ite_irq_of | apply ite_nmi_of | apply ite_fst_irq_of | apply ite_fst_nmi_of | rfl))
        | rfl))

theorem op_4C_pips (step : Nat) (c : w65816_t) (pins : Nat) (r : w65816_t × Nat)
    (h : op_4C step c pins = some r) : r.1.irq_pip = c.irq_pip ∧ r.1.nmi_pip = c.nmi_pip := by
  unfold op_4C at h
  split at h <;> first
    | exact Option.noConfusion h
    | (cases h; constructor <;> (first
        | (dsimp only [] <;>
           repeat' (first | apply ite_irq_of | apply ite_nmi_of | apply ite_fst_irq_of | apply ite_fst_nmi_of | rfl))
        | rfl))

theorem op_4D_pips (step : Nat) (c : w65816_t) (pins : Nat) (r : w65816_t × Nat)
    (h : op_4D step c pins = some r) : r.1.irq_pip = c.irq_pip ∧ r.1.nmi_pip = c.nmi_pip := by
  unfold op_4D at h
  split at h <;> first
    | exact Option.noConfusion h
    | (cases h; constructor <;> (first
        | (dsimp only [set_A, _NZ] <;>
           repeat' (first | apply ite_irq_of | apply ite_nmi_of | apply ite_fst_irq_of | apply ite_fst_nmi_of | rfl))
        | rfl))

theorem op_4E_pips (step : Nat) (c : w65816_t) (pins : Nat) (r : w65816_t × Nat)
    (h : op_4E step c pins = some r) : r.1.irq_pip = c.irq_pip ∧ r.1.nmi_pip = c.nmi_pip := by
  unfold op_4E at h
  split at h <;> first
    | exact Option.noConfusion h
    | (cases h; constructor <;> (first
        | (dsimp only [_w65816_lsr] <;>
           repeat' (first | apply ite_irq_of | apply ite_nmi_of | apply ite_fst_irq_of | apply ite_fst_nmi_of | rfl))
        | rfl))

theorem op_4F_pips (step : Nat) (c : w65816_t) (pins : Nat) (r : w65816_t × Nat)
    (h : op_4F step c pins = some r) : r.1.irq_pip = c.irq_pip ∧ r.1.nmi_pip = c.nmi_pip := by
  unfold op_4F at h
  split at h <;> first
    | exact Option.noConfusion h
    | (cases h; constructor <;> (first
        | (dsimp only [set_A, _NZ] <;>
           repeat' (first | apply ite_irq_of | apply ite_nmi_of | apply ite_fst_irq_of | apply ite_fst_nmi_of | rfl))
        | rfl))

theorem op_50_pips (step : Nat) (c : w65816_t) (pins : Nat) (r : w65816_t × Nat)
    (h : op_50 step c pins = some r) :
    (step = 2 ∧ (c.AD &&& 0xFF00) = (c.PC &&& 0xFF00) →
      r.1.irq_pip = c.irq_pip >>> 1 ∧ r.1.nmi_pip = c.nmi_pip >>> 1) ∧
    (¬ (step = 2 ∧ (c.AD &&& 0xFF00) = (c.PC &&& 0xFF00)) →
      r.1.irq_pip = c.irq_pip ∧ r.1.nmi_pip = c.nmi_pip) := by
  unfold op_50 at h
  split at h
  · cases h; exact ⟨fun hh => absurd hh.1 (by decide), fun _ => ⟨rfl, rfl⟩⟩
  · cases h; exact ⟨fun hh => absurd hh.1 (by decide), fun _ => ⟨rfl, rfl⟩⟩
  · cases h
    by_cases hp : (c.AD &&& 0xFF00) = (c.PC &&& 0xFF00)
    · refine ⟨fun _ => ?_, fun hh => absurd ⟨rfl, hp⟩ hh⟩
      dsimp only []
      rw [if_pos hp]
      exact ⟨rfl, rfl⟩
    · refine ⟨fun hh => absurd hh.2 hp, fun _ => ?_⟩
      dsimp only []
      rw [if_neg hp]
      exact ⟨rfl, rfl⟩
  · cases h; exact ⟨fun hh => absurd hh.1 (by decide), fun _ => ⟨rfl, rfl⟩⟩
  · exact Option.noConfusion h

theorem op_51_pips (step : Nat) (c : w65816_t) (pins : Nat) (r : w65816_t × Nat)
    (h : op_51 step c pins = some r) : r.1.irq_pip = c.irq_pip ∧ r.1.nmi_pip = c.nmi_pip := by
  unfold op_51 at h
  split at h <;> first
    | exact Option.noConfusion h
    | (cases h; constructor <;> (first
        | (dsimp only [set_A, _NZ] <;>
           repeat' (first | apply ite_irq_of | apply ite_nmi_of | apply ite_fst_irq_of | apply ite_fst_nmi_of | rfl))
        | rfl))

theorem op_52_pips (step : Nat) (c : w65816_t) (pins : Nat) (r : w65816_t × Nat)
    (h : op_52 step c pins = some r) : r.1.irq_pip = c.irq_pip ∧ r.1.nmi_pip = c.nmi_pip := by
  unfold op_52 at h
  split at h <;> first
    | exact Option.noConfusion h
    | (cases h; constructor <;> (first
        | (dsimp only [set_A, _NZ] <;>
           repeat' (first | apply ite_irq_of | apply ite_nmi_of | apply ite_fst_irq_of | apply ite_fst_nmi_of | rfl))
        | rfl))

theorem op_53_pips (step : Nat) (c : w65816_t) (pins : Nat) (r : w65816_t × Nat)
    (h : op_53 step c pins = some r) : r.1.irq_pip = c.irq_pip ∧ r.1.nmi_pip = c.nmi_pip := by
  unfold op_53 at h
  split at h <;> first
    | exact Option.noConfusion h
    | (cases h; constructor <;> (first
        | (dsimp only [set_A, _NZ] <;>
           repeat' (first | apply ite_irq_of | apply ite_nmi_of | apply ite_fst_irq_of | apply ite_fst_nmi_of | rfl))
        | rfl))

theorem op_54_pips (step : Nat) (c : w65816_t) (pins : Nat) (r : w65816_t × Nat)
    (h : op_54 step c pins = some r) : r.1.irq_pip = c.irq_pip ∧ r.1.nmi_pip = c.nmi_pip := by
  unfold op_54 at h
  split at h <;> first
    | exact Option.noConfusion h
    | (cases h; constructor <;> (first
        | (dsimp only [] <;>
           repeat' (first | apply ite_irq_of | apply ite_nmi_of | apply ite_fst_irq_of | apply ite_fst_nmi_of | rfl))
        | rfl))

theorem op_55_pips (step : Nat) (c : w65816_t) (pins : Nat) (r : w65816_t × Nat)
    (h : op_55 step c pins = some r) : r.1.irq_pip = c.irq_pip ∧ r.1.nmi_pip = c.nmi_pip := by
  unfold op_55 at h
  split at h <;> first
    | exact Option.noConfusion h
    | (cases h; constructor <;> (first
        | (dsimp only [set_A, _NZ] <;>
           repeat' (first | apply ite_irq_of | apply ite_nmi_of | apply ite_fst_irq_of | apply ite_fst_nmi_of | rfl))
        | rfl))

theorem op_56_pips (step : Nat) (c : w65816_t) (pins : Nat) (r : w65816_t × Nat)
    (h : op_56 step c pins = some r) : r.1.irq_pip = c.irq_pip ∧ r.1.nmi_pip = c.nmi_pip := by
  unfold op_56 at h
  split at h <;> first
    | exact Option.noConfusion h
    | (cases h; constructor <;> (first
        | (dsimp only [_w65816_lsr] <;>
           repeat' (first | apply ite_irq_of | apply ite_nmi_of | apply ite_fst_irq_of | apply ite_fst_nmi_of | rfl))
        | rfl))

theorem op_57_pips (step : Nat) (c : w65816_t) (pins : Nat) (r : w65816_t × Nat)
    (h : op_57 step c pins = some r) : r.1.irq_pip = c.irq_pip ∧ r.1.nmi_pip = c.nmi_pip := by
  unfold op_57 at h
  split at h <;> first
    | exact Option.noConfusion h
    | (cases h; constructor <;> (first
        | (dsimp only [set_A, _NZ] <;>
           repeat' (first | apply ite_irq_of | apply ite_nmi_of | apply ite_fst_irq_of | apply ite_fst_nmi_of | rfl))
        | rfl))

theorem op_58_pips (step : Nat) (c : w65816_t) (pins : Nat) (r : w65816_t × Nat)
    (h : op_58 step c pins = some r) : r.1.irq_pip = c.irq_pip ∧ r.1.nmi_pip = c.nmi_pip := by
  unfold op_58 at h
  split at h <;> first
    | exact Option.noConfusion h
    | (cases h; constructor <;> (first
        | (dsimp only [] <;>
           repeat' (first | apply ite_irq_of | apply ite_nmi_of | apply ite_fst_irq_of | apply ite_fst_nmi_of | rfl))
        | rfl))

theorem op_59_pips (step : Nat) (c : w65816_t) (pins : Nat) (r : w65816_t × Nat)
    (h : op_59 step c pins = some r) : r.1.irq_pip = c.irq_pip ∧ r.1.nmi_pip = c.nmi_pip := by
  unfold op_59 at h
  split at h <;> first
    | exact Option.noConfusion h
    | (cases h; constructor <;> (first
        | (dsimp only [set_A, _NZ] <;>
           repeat' (first | apply ite_irq_of | apply ite_nmi_of | apply ite_fst_irq_of | apply ite_fst_nmi_of | rfl))
        | rfl))

theorem op_5A_pips (step : Nat) (c : w65816_t) (pins : Nat) (r : w65816_t × Nat)
    (h : op_5A step c pins = some r) : r.1.irq_pip = c.irq_pip ∧ r.1.nmi_pip = c.nmi_pip := by
  unfold op_5A at h
  split at h <;> first
    | exact Option.noConfusion h
    | (cases h; constructor <;> (first
        | (dsimp only [set_S] <;>
           repeat' (first | apply ite_irq_of | apply ite_nmi_of | apply ite_fst_irq_of | apply ite_fst_nmi_of | rfl))
        | rfl))

theorem op_5B_pips (step : Nat) (c : w65816_t) (pins : Nat) (r : w65816_t × Nat)
    (h : op_5B step c pins = some r) : r.1.irq_pip = c.irq_pip ∧ r.1.nmi_pip = c.nmi_pip := by
  unfold op_5B at h
  split at h <;> first
    | exact Option.noConfusion h
    | (cases h; constructor <;> (first
        | (dsimp only [_NZ] <;>
           repeat' (first | apply ite_irq_of | apply ite_nmi_of | apply ite_fst_irq_of | apply ite_fst_nmi_of | rfl))
        | rfl))

theorem op_5C_pips (step : Nat) (c : w65816_t) (pins : Nat) (r : w65816_t × Nat)
    (h : op_5C step c pins = some r) : r.1.irq_pip = c.irq_pip ∧ r.1.nmi_pip = c.nmi_pip := by
  unfold op_5C at h
  split at h <;> first
    | exact Option.noConfusion h
    | (cases h; constructor <;> (first
        | (dsimp only [] <;>
           repeat' (first | apply ite_irq_of | apply ite_nmi_of | apply ite_fst_irq_of | apply ite_fst_nmi_of | rfl))
        | rfl))

theorem op_5D_pips (step : Nat) (c : w65816_t) (pins : Nat) (r : w65816_t × Nat)
    (h : op_5D step c pins = some r) : r.1.irq_pip = c.irq_pip ∧ r.1.nmi_pip = c.nmi_pip := by
  unfold op_5D at h
  split at h <;> first
    | exact Option.noConfusion h
    | (cases h; constructor <;> (first
        | (dsimp only [set_A, _NZ] <;>
           repeat' (first | apply ite_irq_of | apply ite_nmi_of | apply ite_fst_irq_of | apply ite_fst_nmi_of | rfl))
        | rfl))

theorem op_5E_pips (step : Nat) (c : w65816_t) (pins : Nat) (r : w65816_t × Nat)
    (h : op_5E step c pins = some r) : r.1.irq_pip = c.irq_pip ∧ r.1.nmi_pip = c.nmi_pip := by
  unfold op_5E at h
  split at h <;> first
    | exact Option.noConfusion h
    | (cases h; constructor <;> (first
        | (dsimp only [_w65816_lsr] <;>
           repeat' (first | apply ite_irq_of | apply ite_nmi_of | apply ite_fst_irq_of | apply ite_fst_nmi_of | rfl))
        | rfl))

theorem op_5F_pips (step : Nat) (c : w65816_t) (pins : Nat) (r : w65816_t × Nat)
    (h : op_5F step c pins = some r) : r.1.irq_pip = c.irq_pip ∧ r.1.nmi_pip = c.nmi_pip := by
  unfold op_5F at h
  split at h <;> first
    | exact Option.noConfusion h
    | (cases h; constructor <;> (first
        | (dsimp only [set_A, _NZ] <;>
           repeat' (first | apply ite_irq_of | apply ite_nmi_of | apply ite_fst_irq_of | apply ite_fst_nmi_of | rfl))
        | rfl))

theorem op_60_pips (step : Nat) (c : w65816_t) (pins : Nat) (r : w65816_t × Nat)
    (h : op_60 step c pins = some r) : r.1.irq_pip = c.irq_pip ∧ r.1.nmi_pip = c.nmi_pip := by
  unfold op_60 at h
  split at h <;> first
    | exact Option.noConfusion h
    | (cases h; constructor <;> (first
        | (dsimp only [set_S] <;>
           repeat' (first | apply ite_irq_of | apply ite_nmi_of | apply ite_fst_irq_of | apply ite_fst_nmi_of | rfl))
        | rfl))

theorem op_61_pips (step : Nat) (c : w65816_t) (pins : Nat) (r : w65816_t × Nat)
    (h : op_61 step c pins = some r) : r.1.irq_pip = c.irq_pip ∧ r.1.nmi_pip = c.nmi_pip := by
  unfold op_61 at h
  split at h <;> first
    | exact Option.noConfusion h
    | (cases h; constructor <;> (first
        | (dsimp only [] <;>
           repeat' (first | apply ite_irq_of | apply ite_nmi_of | apply ite_fst_irq_of | apply ite_fst_nmi_of | apply adc_irq | apply adc_nmi | rfl))
        | rfl))

theorem op_62_pips (step : Nat) (c : w65816_t) (pins : Nat) (r : w65816_t × Nat)
    (h : op_62 step c pins = some r) : r.1.irq_pip = c.irq_pip ∧ r.1.nmi_pip = c.nmi_pip := by
  unfold op_62 at h
  split at h <;> first
    | exact Option.noConfusion h
    | (cases h; constructor <;> (first
        | (dsimp only [] <;>
           repeat' (first | apply ite_irq_of | apply ite_nmi_of | apply ite_fst_irq_of | apply ite_fst_nmi_of | rfl))
        | rfl))

theorem op_63_pips (step : Nat) (c : w65816_t) (pins : Nat) (r : w65816_t × Nat)
    (h : op_63 step c pins = some r) : r.1.irq_pip = c.irq_pip ∧ r.1.nmi_pip = c.nmi_pip := by
  unfold op_63 at h
  split at h <;> first
    | exact Option.noConfusion h
    | (cases h; constructor <;> (first
        | (dsimp only [] <;>
           repeat' (first | apply ite_irq_of | apply ite_nmi_of | apply ite_fst_irq_of | apply ite_fst_nmi_of | apply adc_irq | apply adc_nmi | rfl))
        | rfl))

theorem op_64_pips (step : Nat) (c : w65816_t) (pins : Nat) (r : w65816_t × Nat)
    (h : op_64 step c pins = some r) : r.1.irq_pip = c.irq_pip ∧ r.1.nmi_pip = c.nmi_pip := by
  unfold op_64 at h
  split at h <;> first
    | exact Option.noConfusion h
    | (cases h; constructor <;> (first
        | (dsimp only [] <;>
           repeat' (first | apply ite_irq_of | apply ite_nmi_of | apply ite_fst_irq_of | apply ite_fst_nmi_of | rfl))
        | rfl))

theorem op_65_pips (step : Nat) (c : w65816_t) (pins : Nat) (r : w65816_t × Nat)
    (h : op_65 step c pins = some r) : r.1.irq_pip = c.irq_pip ∧ r.1.nmi_pip = c.nmi_pip := by
  unfold op_65 at h
  split at h <;> first
    | exact Option.noConfusion h
    | (cases h; constructor <;> (first
        | (dsimp only [] <;>
           repeat' (first | apply ite_irq_of | apply ite_nmi_of | apply ite_fst_irq_of | apply ite_fst_nmi_of | apply adc_irq | apply adc_nmi | rfl))
        | rfl))

theorem op_66_pips (step : Nat) (c : w65816_t) (pins : Nat) (r : w65816_t × Nat)
    (h : op_66 step c pins = some r) : r.1.irq_pip = c.irq_pip ∧ r.1.nmi_pip = c.nmi_pip := by
  unfold op_66 at h
  split at h <;> first
    | exact Option.noConfusion h
    | (cases h; constructor <;> (first
        | (dsimp only [] <;>
           repeat' (first | apply ite_irq_of | apply ite_nmi_of | apply ite_fst_irq_of | apply ite_fst_nmi_of | apply ror_irq | apply ror_nmi | rfl))
        | rfl))

theorem op_67_pips (step : Nat) (c : w65816_t) (pins : Nat) (r : w65816_t × Nat)
    (h : op_67 step c pins = some r) : r.1.irq_pip = c.irq_pip ∧ r.1.nmi_pip = c.nmi_pip := by
  unfold op_67 at h
  split at h <;> first
    | exact Option.noConfusion h
    | (cases h; constructor <;> (first
        | (dsimp only [] <;>
           repeat' (first | apply ite_irq_of | apply ite_nmi_of | apply ite_fst_irq_of | apply ite_fst_nmi_of | apply adc_irq | apply adc_nmi | rfl))
        | rfl))

theorem op_68_pips (step : Nat) (c : w65816_t) (pins : Nat) (r : w65816_t × Nat)
    (h : op_68 step c pins = some r) : r.1.irq_pip = c.irq_pip ∧ r.1.nmi_pip = c.nmi_pip := by
  unfold op_68 at h
  split at h <;> first
    | exact Option.noConfusion h
    | (cases h; constructor <;> (first
        | (dsimp only [set_A, set_S, _NZ] <;>
           repeat' (first | apply ite_irq_of | apply ite_nmi_of | apply ite_fst_irq_of | apply ite_fst_nmi_of | rfl))
        | rfl))

theorem op_69_pips (step : Nat) (c : w65816_t) (pins : Nat) (r : w65816_t × Nat)
    (h : op_69 step c pins = some r) : r.1.irq_pip = c.irq_pip ∧ r.1.nmi_pip = c.nmi_pip := by
  unfold op_69 at h
  split at h <;> first
    | exact Option.noConfusion h
    | (cases h; constructor <;> (first
        | (dsimp only [] <;>
           repeat' (first | apply ite_irq_of | apply ite_nmi_of | apply ite_fst_irq_of | apply ite_fst_nmi_of | apply adc_irq | apply adc_nmi | rfl))
        | rfl))

theorem op_6A_pips (step : Nat) (c : w65816_t) (pins : Nat) (r : w65816_t × Nat)
    (h : op_6A step c pins = some r) : r.1.irq_pip = c.irq_pip ∧ r.1.nmi_pip = c.nmi_pip := by
  unfold op_6A at h
  split at h <;> first
    | exact Option.noConfusion h
    | (cases h; constructor <;> (first
        | (dsimp only [set_A] <;>
           repeat' (first | apply ite_irq_of | apply ite_nmi_of | apply ite_fst_irq_of | apply ite_fst_nmi_of | apply ror_irq | apply ror_nmi | rfl))
        | rfl))

theorem op_6B_pips (step : Nat) (c : w65816_t) (pins : Nat) (r : w65816_t × Nat)
    (h : op_6B step c pins = some r) : r.1.irq_pip = c.irq_pip ∧ r.1.nmi_pip = c.nmi_pip := by
  unfold op_6B at h
  split at h <;> first
    | exact Option.noConfusion h
    | (cases h; constructor <;> (first
        | (dsimp only [set_S] <;>
           repeat' (first | apply ite_irq_of | apply ite_nmi_of | apply ite_fst_irq_of | apply ite_fst_nmi_of | rfl))
        | rfl))

theorem op_6C_pips (step : Nat) (c : w65816_t) (pins : Nat) (r : w65816_t × Nat)
    (h : op_6C step c pins = some r) : r.1.irq_pip = c.irq_pip ∧ r.1.nmi_pip = c.nmi_pip := by
  unfold op_6C at h
  split at h <;> first
    | exact Option.noConfusion h
    | (cases h; constructor <;> (first
        | (dsimp only [] <;>
           repeat' (first | apply ite_irq_of | apply ite_nmi_of | apply ite_fst_irq_of | apply ite_fst_nmi_of | rfl))
        | rfl))

theorem op_6D_pips (step : Nat) (c : w65816_t) (pins : Nat) (r : w65816_t × Nat)
    (h : op_6D step c pins = some r) : r.1.irq_pip = c.irq_pip ∧ r.1.nmi_pip = c.nmi_pip := by
  unfold op_6D at h
  split at h <;> first
    | exact Option.noConfusion h
    | (cases h; constructor <;> (first
        | (dsimp only [] <;>
           repeat' (first | apply ite_irq_of | apply ite_nmi_of | apply ite_fst_irq_of | apply ite_fst_nmi_of | apply adc_irq | apply adc_nmi | rfl))
        | rfl))

theorem op_6E_pips (step : Nat) (c : w65816_t) (pins : Nat) (r : w65816_t × Nat)
    (h : op_6E step c pins = some r) : r.1.irq_pip = c.irq_pip ∧ r.1.nmi_pip = c.nmi_pip := by
  unfold op_6E at h
  split at h <;> first
    | exact Option.noConfusion h
    | (cases h; constructor <;> (first
        | (dsimp only [] <;>
           repeat' (first | apply ite_irq_of | apply ite_nmi_of | apply ite_fst_irq_of | apply ite_fst_nmi_of | apply ror_irq | apply ror_nmi | rfl))
        | rfl))

theorem op_6F_pips (step : Nat) (c : w65816_t) (pins : Nat) (r : w65816_t × Nat)
    (h : op_6F step c pins = some r) : r.1.irq_pip = c.irq_pip ∧ r.1.nmi_pip = c.nmi_pip := by
  unfold op_6F at h
  split at h <;> first
    | exact Option.noConfusion h
    | (cases h; constructor <;> (first
        | (dsimp only [] <;>
           repeat' (first | apply ite_irq_of | apply ite_nmi_of | apply ite_fst_irq_of | apply ite_fst_nmi_of | apply adc_irq | apply adc_nmi | rfl))
        | rfl))

theorem op_70_pips (step : Nat) (c : w65816_t) (pins : Nat) (r : w65816_t × Nat)
    (h : op_70 step c pins = some r) :
    (step = 2 ∧ (c.AD &&& 0xFF00) = (c.PC &&& 0xFF00) →
      r.1.irq_pip = c.irq_pip >>> 1 ∧ r.1.nmi_pip = c.nmi_pip >>> 1) ∧
    (¬ (step = 2 ∧ (c.AD &&& 0xFF00) = (c.PC &&& 0xFF00)) →
      r.1.irq_pip = c.irq_pip ∧ r.1.nmi_pip = c.nmi_pip) := by
  unfold op_70 at h
  split at h
  · cases h; exact ⟨fun hh => absurd hh.1 (by decide), fun _ => ⟨rfl, rfl⟩⟩
  · cases h; exact ⟨fun hh => absurd hh.1 (by decide), fun _ => ⟨rfl, rfl⟩⟩
  · cases h
    by_cases hp : (c.AD &&& 0xFF00) = (c.PC &&& 0xFF00)
    · refine ⟨fun _ => ?_, fun hh => absurd ⟨rfl, hp⟩ hh⟩
      dsimp only []
      rw [if_pos hp]
      exact ⟨rfl, rfl⟩
    · refine ⟨fun hh => absurd hh.2 hp, fun _ => ?_⟩
      dsimp only []
      rw [if_neg hp]
      exact ⟨rfl, rfl⟩
  · cases h; exact ⟨fun hh => absurd hh.1 (by decide), fun _ => ⟨rfl, rfl⟩⟩
  · exact Option.noConfusion h

theorem op_71_pips (step : Nat) (c : w65816_t) (pins : Nat) (r : w65816_t × Nat)
    (h : op_71 step c pins = some r) : r.1.irq_pip = c.irq_pip ∧ r.1.nmi_pip = c.nmi_pip := by
  unfold op_71 at h
  split at h <;> first
    | exact Option.noConfusion h
    | (cases h; constructor <;> (first
        | (dsimp only [] <;>
           repeat' (first | apply ite_irq_of | apply ite_nmi_of | apply ite_fst_irq_of | apply ite_fst_nmi_of | apply adc_irq | apply adc_nmi | rfl))
        | rfl))

theorem op_72_pips (step : Nat) (c : w65816_t) (pins : Nat) (r : w65816_t × Nat)
    (h : op_72 step c pins = some r) : r.1.irq_pip = c.irq_pip ∧ r.1.nmi_pip = c.nmi_pip := by
  unfold op_72 at h
  split at h <;> first
    | exact Option.noConfusion h
    | (cases h; constructor <;> (first
        | (dsimp only [] <;>
           repeat' (first | apply ite_irq_of | apply ite_nmi_of | apply ite_fst_irq_of | apply ite_fst_nmi_of | apply adc_irq | apply adc_nmi | rfl))
        | rfl))

theorem op_73_pips (step : Nat) (c : w65816_t) (pins : Nat) (r : w65816_t × Nat)
    (h : op_73 step c pins = some r) : r.1.irq_pip = c.irq_pip ∧ r.1.nmi_pip = c.nmi_pip := by
  unfold op_73 at h
  split at h <;> first
    | exact Option.noConfusion h
    | (cases h; constructor <;> (first
        | (dsimp only [] <;>
           repeat' (first | apply ite_irq_of | apply ite_nmi_of | apply ite_fst_irq_of | apply ite_fst_nmi_of | apply adc_irq | apply adc_nmi | rfl))
        | rfl))

theorem op_74_pips (step : Nat) (c : w65816_t) (pins : Nat) (r : w65816_t × Nat)
    (h : op_74 step c pins = some r) : r.1.irq_pip = c.irq_pip ∧ r.1.nmi_pip = c.nmi_pip := by
  unfold op_74 at h
  split at h <;> first
    | exact Option.noConfusion h
    | (cases h; constructor <;> (first
        | (dsimp only [] <;>
           repeat' (first | apply ite_irq_of | apply ite_nmi_of | apply ite_fst_irq_of | apply ite_fst_nmi_of | rfl))
        | rfl))

theorem op_75_pips (step : Nat) (c : w65816_t) (pins : Nat) (r : w65816_t × Nat)
    (h : op_75 step c pins = some r) : r.1.irq_pip = c.irq_pip ∧ r.1.nmi_pip = c.nmi_pip := by
  unfold op_75 at h
  split at h <;> first
    | exact Option.noConfusion h
    | (cases h; constructor <;> (first
        | (dsimp only [] <;>
           repeat' (first | apply ite_irq_of | apply ite_nmi_of | apply ite_fst_irq_of | apply ite_fst_nmi_of | apply adc_irq | apply adc_nmi | rfl))
        | rfl))

theorem op_76_pips (step : Nat) (c : w65816_t) (pins : Nat) (r : w65816_t × Nat)
    (h : op_76 step c pins = some r) : r.1.irq_pip = c.irq_pip ∧ r.1.nmi_pip = c.nmi_pip := by
  unfold op_76 at h
  split at h <;> first
    | exact Option.noConfusion h
    | (cases h; constructor <;> (first
        | (dsimp only [] <;>
           repeat' (first | apply ite_irq_of | apply ite_nmi_of | apply ite_fst_irq_of | apply ite_fst_nmi_of | apply ror_irq | apply ror_nmi | rfl))
        | rfl))

theorem op_77_pips (step : Nat) (c : w65816_t) (pins : Nat) (r : w65816_t × Nat)
    (h : op_77 step c pins = some r) : r.1.irq_pip = c.irq_pip ∧ r.1.nmi_pip = c.nmi_pip := by
  unfold op_77 at h
  split at h <;> first
    | exact Option.noConfusion h
    | (cases h; constructor <;> (first
        | (dsimp only [] <;>
           repeat' (first | apply ite_irq_of | apply ite_nmi_of | apply ite_fst_irq_of | apply ite_fst_nmi_of | apply adc_irq | apply adc_nmi | rfl))
        | rfl))

theorem op_78_pips (step : Nat) (c : w65816_t) (pins : Nat) (r : w65816_t × Nat)
    (h : op_78 step c pins = some r) : r.1.irq_pip = c.irq_pip ∧ r.1.nmi_pip = c.nmi_pip := by
  unfold op_78 at h
  split at h <;> first
    | exact Option.noConfusion h
    | (cases h; constructor <;> (first
        | (dsimp only [] <;>
           repeat' (first | apply ite_irq_of | apply ite_nmi_of | apply ite_fst_irq_of | apply ite_fst_nmi_of | rfl))
        | rfl))

theorem op_79_pips (step : Nat) (c : w65816_t) (pins : Nat) (r : w65816_t × Nat)
    (h : op_79 step c pins = some r) : r.1.irq_pip = c.irq_pip ∧ r.1.nmi_pip = c.nmi_pip := by
  unfold op_79 at h
  split at h <;> first
    | exact Option.noConfusion h
    | (cases h; constructor <;> (first
        | (dsimp only [] <;>
           repeat' (first | apply ite_irq_of | apply ite_nmi_of | apply ite_fst_irq_of | apply ite_fst_nmi_of | apply adc_irq | apply adc_nmi | rfl))
        | rfl))

theorem op_7A_pips (step : Nat) (c : w65816_t) (pins : Nat) (r : w65816_t × Nat)
    (h : op_7A step c pins = some r) : r.1.irq_pip = c.irq_pip ∧ r.1.nmi_pip = c.nmi_pip := by
  unfold op_7A at h
  split at h <;> first
    | exact Option.noConfusion h
    | (cases h; constructor <;> (first
        | (dsimp only [set_Y, set_S, _NZ] <;>
           repeat' (first | apply ite_irq_of | apply ite_nmi_of | apply ite_fst_irq_of | apply ite_fst_nmi_of | rfl))
        | rfl))

theorem op_7B_pips (step : Nat) (c : w65816_t) (pins : Nat) (r : w65816_t × Nat)
    (h : op_7B step c pins = some r) : r.1.irq_pip = c.irq_pip ∧ r.1.nmi_pip = c.nmi_pip := by
  unfold op_7B at h
  split at h <;> first
    | exact Option.noConfusion h
    | (cases h; constructor <;> (first
        | (dsimp only [_NZ] <;>
           repeat' (first | apply ite_irq_of | apply ite_nmi_of | apply ite_fst_irq_of | apply ite_fst_nmi_of | rfl))
        | rfl))

theorem op_7C_pips (step : Nat) (c : w65816_t) (pins : Nat) (r : w65816_t × Nat)
    (h : op_7C step c pins = some r) : r.1.irq_pip = c.irq_pip ∧ r.1.nmi_pip = c.nmi_pip := by
  unfold op_7C at h
  split at h <;> first
    | exact Option.noConfusion h
    | (cases h; constructor <;> (first
        | (dsimp only [] <;>
           repeat' (first | apply ite_irq_of | apply ite_nmi_of | apply ite_fst_irq_of | apply ite_fst_nmi_of | rfl))
        | rfl))

theorem op_7D_pips (step : Nat) (c : w65816_t) (pins : Nat) (r : w65816_t × Nat)
    (h : op_7D step c pins = some r) : r.1.irq_pip = c.irq_pip ∧ r.1.nmi_pip = c.nmi_pip := by
  unfold op_7D at h
  split at h <;> first
    | exact Option.noConfusion h
    | (cases h; constructor <;> (first
        | (dsimp only [] <;>
           repeat' (first | apply ite_irq_of | apply ite_nmi_of | apply ite_fst_irq_of | apply ite_fst_nmi_of | apply adc_irq | apply adc_nmi | rfl))
        | rfl))

theorem op_7E_pips (step : Nat) (c : w65816_t) (pins : Nat) (r : w65816_t × Nat)
    (h : op_7E step c pins = some r) : r.1.irq_pip = c.irq_pip ∧ r.1.nmi_pip = c.nmi_pip := by
  unfold op_7E at h
  split at h <;> first
    | exact Option.noConfusion h
    | (cases h; constructor <;> (first
        | (dsimp only [] <;>
           repeat' (first | apply ite_irq_of | apply ite_nmi_of | apply ite_fst_irq_of | apply ite_fst_nmi_of | apply ror_irq | apply ror_nmi | rfl))
        | rfl))

theorem op_7F_pips (step : Nat) (c : w65816_t) (pins : Nat) (r : w65816_t × Nat)
    (h : op_7F step c pins = some r) : r.1.irq_pip = c.irq_pip ∧ r.1.nmi_pip = c.nmi_pip := by
  unfold op_7F at h
  split at h <;> first
    | exact Option.noConfusion h
    | (cases h; constructor <;> (first
        | (dsimp only [] <;>
           repeat' (first | apply ite_irq_of | apply ite_nmi_of | apply ite_fst_irq_of | apply ite_fst_nmi_of | apply adc_irq | apply adc_nmi | rfl))
        | rfl))

theorem op_80_pips (step : Nat) (c : w65816_t) (pins : Nat) (r : w65816_t × Nat)
    (h : op_80 step c pins = some r) :
    (step = 2 ∧ (c.AD &&& 0xFF00) = (c.PC &&& 0xFF00) →
      r.1.irq_pip = c.irq_pip >>> 1 ∧ r.1.nmi_pip = c.nmi_pip >>> 1) ∧
    (¬ (step = 2 ∧ (c.AD &&& 0xFF00) = (c.PC &&& 0xFF00)) →
      r.1.irq_pip = c.irq_pip ∧ r.1.nmi_pip = c.nmi_pip) := by
  unfold op_80 at h
  split at h
  · cases h; exact ⟨fun hh => absurd hh.1 (by decide), fun _ => ⟨rfl, rfl⟩⟩
  · cases h; exact ⟨fun hh => absurd hh.1 (by decide), fun _ => ⟨rfl, rfl⟩⟩
  · cases h
    by_cases hp : (c.AD &&& 0xFF00) = (c.PC &&& 0xFF00)
    · refine ⟨fun _ => ?_, fun hh => absurd ⟨rfl, hp⟩ hh⟩
      dsimp only []
      rw [if_pos hp]
      exact ⟨rfl, rfl⟩
    · refine ⟨fun hh => absurd hh.2 hp, fun _ => ?_⟩
      dsimp only []
      rw [if_neg hp]
      exact ⟨rfl, rfl⟩
  · cases h; exact ⟨fun hh => absurd hh.1 (by decide), fun _ => ⟨rfl, rfl⟩⟩
  · exact Option.noConfusion h

theorem op_81_pips (step : Nat) (c : w65816_t) (pins : Nat) (r : w65816_t × Nat)
    (h : op_81 step c pins = some r) : r.1.irq_pip = c.irq_pip ∧ r.1.nmi_pip = c.nmi_pip := by
  unfold op_81 at h
  split at h <;> first
    | exact Option.noConfusion h
    | (cases h; constructor <;> (first
        | (dsimp only [] <;>
           repeat' (first | apply ite_irq_of | apply ite_nmi_of | apply ite_fst_irq_of | apply ite_fst_nmi_of | rfl))
        | rfl))

theorem op_82_pips (step : Nat) (c : w65816_t) (pins : Nat) (r : w65816_t × Nat)
    (h : op_82 step c pins = some r) : r.1.irq_pip = c.irq_pip ∧ r.1.nmi_pip = c.nmi_pip := by
  unfold op_82 at h
  split at h <;> first
    | exact Option.noConfusion h
    | (cases h; constructor <;> (first
        | (dsimp only [] <;>
           repeat' (first | apply ite_irq_of | apply ite_nmi_of | apply ite_fst_irq_of | apply ite_fst_nmi_of | rfl))
        | rfl))

theorem op_83_pips (step : Nat) (c : w65816_t) (pins : Nat) (r : w65816_t × Nat)
    (h : op_83 step c pins = some r) : r.1.irq_pip = c.irq_pip ∧ r.1.nmi_pip = c.nmi_pip := by
  unfold op_83 at h
  split at h <;> first
    | exact Option.noConfusion h
    | (cases h; constructor <;> (first
        | (dsimp only [] <;>
           repeat' (first | apply ite_irq_of | apply ite_nmi_of | apply ite_fst_irq_of | apply ite_fst_nmi_of | rfl))
        | rfl))

theorem op_84_pips (step : Nat) (c : w65816_t) (pins : Nat) (r : w65816_t × Nat)
    (h : op_84 step c pins = some r) : r.1.irq_pip = c.irq_pip ∧ r.1.nmi_pip = c.nmi_pip := by
  unfold op_84 at h
  split at h <;> first
    | exact Option.noConfusion h
    | (cases h; constructor <;> (first
        | (dsimp only [] <;>
           repeat' (first | apply ite_irq_of | apply ite_nmi_of | apply ite_fst_irq_of | apply ite_fst_nmi_of | rfl))
        | rfl))

theorem op_85_pips (step : Nat) (c : w65816_t) (pins : Nat) (r : w65816_t × Nat)
    (h : op_85 step c pins = some r) : r.1.irq_pip = c.irq_pip ∧ r.1.nmi_pip = c.nmi_pip := by
  unfold op_85 at h
  split at h <;> first
    | exact Option.noConfusion h
    | (cases h; constructor <;> (first
        | (dsimp only [] <;>
           repeat' (first | apply ite_irq_of | apply ite_nmi_of | apply ite_fst_irq_of | apply ite_fst_nmi_of | rfl))
        | rfl))

theorem op_86_pips (step : Nat) (c : w65816_t) (pins : Nat) (r : w65816_t × Nat)
    (h : op_86 step c pins = some r) : r.1.irq_pip = c.irq_pip ∧ r.1.nmi_pip = c.nmi_pip := by
  unfold op_86 at h
  split at h <;> first
    | exact Option.noConfusion h
    | (cases h; constructor <;> (first
        | (dsimp only [] <;>
           repeat' (first | apply ite_irq_of | apply ite_nmi_of | apply ite_fst_irq_of | apply ite_fst_nmi_of | rfl))
        | rfl))

theorem op_87_pips (step : Nat) (c : w65816_t) (pins : Nat) (r : w65816_t × Nat)
    (h : op_87 step c pins = some r) : r.1.irq_pip = c.irq_pip ∧ r.1.nmi_pip = c.nmi_pip := by
  unfold op_87 at h
  split at h <;> first
    | exact Option.noConfusion h
    | (cases h; constructor <;> (first
        | (dsimp only [] <;>
           repeat' (first | apply ite_irq_of | apply ite_nmi_of | apply ite_fst_irq_of | apply ite_fst_nmi_of | rfl))
        | rfl))

theorem op_88_pips (step : Nat) (c : w65816_t) (pins : Nat) (r : w65816_t × Nat)
    (h : op_88 step c pins = some r) : r.1.irq_pip = c.irq_pip ∧ r.1.nmi_pip = c.nmi_pip := by
  unfold op_88 at h
  split at h <;> first
    | exact Option.noConfusion h
    | (cases h; constructor <;> (first
        | (dsimp only [set_Y, _NZ] <;>
           repeat' (first | apply ite_irq_of | apply ite_nmi_of | apply ite_fst_irq_of | apply ite_fst_nmi_of | rfl))
        | rfl))

theorem op_89_pips (step : Nat) (c : w65816_t) (pins : Nat) (r : w65816_t × Nat)
    (h : op_89 step c pins = some r) : r.1.irq_pip = c.irq_pip ∧ r.1.nmi_pip = c.nmi_pip := by
  unfold op_89 at h
  split at h <;> first
    | exact Option.noConfusion h
    | (cases h; constructor <;> (first
        | (dsimp only [] <;>
           repeat' (first | apply ite_irq_of | apply ite_nmi_of | apply ite_fst_irq_of | apply ite_fst_nmi_of | apply bit_irq | apply bit_nmi | rfl))
        | rfl))

theorem op_8A_pips (step : Nat) (c : w65816_t) (pins : Nat) (r : w65816_t × Nat)
    (h : op_8A step c pins = some r) : r.1.irq_pip = c.irq_pip ∧ r.1.nmi_pip = c.nmi_pip := by
  unfold op_8A at h
  split at h <;> first
    | exact Option.noConfusion h
    | (cases h; constructor <;> (first
        | (dsimp only [set_A, _NZ] <;>
           repeat' (first | apply ite_irq_of | apply ite_nmi_of | apply ite_fst_irq_of | apply ite_fst_nmi_of | rfl))
        | rfl))

theorem op_8B_pips (step : Nat) (c : w65816_t) (pins : Nat) (r : w65816_t × Nat)
    (h : op_8B step c pins = some r) : r.1.irq_pip = c.irq_pip ∧ r.1.nmi_pip = c.nmi_pip := by
  unfold op_8B at h
  split at h <;> first
    | exact Option.noConfusion h
    | (cases h; constructor <;> (first
        | (dsimp only [set_S] <;>
           repeat' (first | apply ite_irq_of | apply ite_nmi_of | apply ite_fst_irq_of | apply ite_fst_nmi_of | rfl))
        | rfl))

theorem op_8C_pips (step : Nat) (c : w65816_t) (pins : Nat) (r : w65816_t × Nat)
    (h : op_8C step c pins = some r) : r.1.irq_pip = c.irq_pip ∧ r.1.nmi_pip = c.nmi_pip := by
  unfold op_8C at h
  split at h <;> first
    | exact Option.noConfusion h
    | (cases h; constructor <;> (first
        | (dsimp only [] <;>
           repeat' (first | apply ite_irq_of | apply ite_nmi_of | apply ite_fst_irq_of | apply ite_fst_nmi_of | rfl))
        | rfl))

theorem op_8D_pips (step : Nat) (c : w65816_t) (pins : Nat) (r : w65816_t × Nat)
    (h : op_8D step c pins = some r) : r.1.irq_pip = c.irq_pip ∧ r.1.nmi_pip = c.nmi_pip := by
  unfold op_8D at h
  split at h <;> first
    | exact Option.noConfusion h
    | (cases h; constructor <;> (first
        | (dsimp only [] <;>
           repeat' (first | apply ite_irq_of | apply ite_nmi_of | apply ite_fst_irq_of | apply ite_fst_nmi_of | rfl))
        | rfl))

theorem op_8E_pips (step : Nat) (c : w65816_t) (pins : Nat) (r : w65816_t × Nat)
    (h : op_8E step c pins = some r) : r.1.irq_pip = c.irq_pip ∧ r.1.nmi_pip = c.nmi_pip := by
  unfold op_8E at h
  split at h <;> first
    | exact Option.noConfusion h
    | (cases h; constructor <;> (first
        | (dsimp only [] <;>
           repeat' (first | apply ite_irq_of | apply ite_nmi_of | apply ite_fst_irq_of | apply ite_fst_nmi_of | rfl))
        | rfl))

theorem op_8F_pips (step : Nat) (c : w65816_t) (pins : Nat) (r : w65816_t × Nat)
    (h : op_8F step c pins = some r) : r.1.irq_pip = c.irq_pip ∧ r.1.nmi_pip = c.nmi_pip := by
  unfold op_8F at h
  split at h <;> first
    | exact Option.noConfusion h
    | (cases h; constructor <;> (first
        | (dsimp only [] <;>
           repeat' (first | apply ite_irq_of | apply ite_nmi_of | apply ite_fst_irq_of | apply ite_fst_nmi_of | rfl))
        | rfl))

theorem op_90_pips (step : Nat) (c : w65816_t) (pins : Nat) (r : w65816_t × Nat)
    (h : op_90 step c pins = some r) :
    (step = 2 ∧ (c.AD &&& 0xFF00) = (c.PC &&& 0xFF00) →
      r.1.irq_pip = c.irq_pip >>> 1 ∧ r.1.nmi_pip = c.nmi_pip >>> 1) ∧
    (¬ (step = 2 ∧ (c.AD &&& 0xFF00) = (c.PC &&& 0xFF00)) →
      r.1.irq_pip = c.irq_pip ∧ r.1.nmi_pip = c.nmi_pip) := by
  unfold op_90 at h
  split at h
  · cases h; exact ⟨fun hh => absurd hh.1 (by decide), fun _ => ⟨rfl, rfl⟩⟩
  · cases h; exact ⟨fun hh => absurd hh.1 (by decide), fun _ => ⟨rfl, rfl⟩⟩
  · cases h
    by_cases hp : (c.AD &&& 0xFF00) = (c.PC &&& 0xFF00)
    · refine ⟨fun _ => ?_, fun hh => absurd ⟨rfl, hp⟩ hh⟩
      dsimp only []
      rw [if_pos hp]
      exact ⟨rfl, rfl⟩
    · refine ⟨fun hh => absurd hh.2 hp, fun _ => ?_⟩
      dsimp only []
      rw [if_neg hp]
      exact ⟨rfl, rfl⟩
  · cases h; exact ⟨fun hh => absurd hh.1 (by decide), fun _ => ⟨rfl, rfl⟩⟩
  · exact Option.noConfusion h

theorem op_91_pips (step : Nat) (c : w65816_t) (pins : Nat) (r : w65816_t × Nat)
    (h : op_91 step c pins = some r) : r.1.irq_pip = c.irq_pip ∧ r.1.nmi_pip = c.nmi_pip := by
  unfold op_91 at h
  split at h <;> first
    | exact Option.noConfusion h
    | (cases h; constructor <;> (first
        | (dsimp only [] <;>
           repeat' (first | apply ite_irq_of | apply ite_nmi_of | apply ite_fst_irq_of | apply ite_fst_nmi_of | rfl))
        | rfl))

theorem op_92_pips (step : Nat) (c : w65816_t) (pins : Nat) (r : w65816_t × Nat)
    (h : op_92 step c pins = some r) : r.1.irq_pip = c.irq_pip ∧ r.1.nmi_pip = c.nmi_pip := by
  unfold op_92 at h
  split at h <;> first
    | exact Option.noConfusion h
    | (cases h; constructor <;> (first
        | (dsimp only [] <;>
           repeat' (first | apply ite_irq_of | apply ite_nmi_of | apply ite_fst_irq_of | apply ite_fst_nmi_of | rfl))
        | rfl))

theorem op_93_pips (step : Nat) (c : w65816_t) (pins : Nat) (r : w65816_t × Nat)
    (h : op_93 step c pins = some r) : r.1.irq_pip = c.irq_pip ∧ r.1.nmi_pip = c.nmi_pip := by
  unfold op_93 at h
  split at h <;> first
    | exact Option.noConfusion h
    | (cases h; constructor <;> (first
        | (dsimp only [] <;>
           repeat' (first | apply ite_irq_of | apply ite_nmi_of | apply ite_fst_irq_of | apply ite_fst_nmi_of | rfl))
        | rfl))

theorem op_94_pips (step : Nat) (c : w65816_t) (pins : Nat) (r : w65816_t × Nat)
    (h : op_94 step c pins = some r) : r.1.irq_pip = c.irq_pip ∧ r.1.nmi_pip = c.nmi_pip := by
  unfold op_94 at h
  split at h <;> first
    | exact Option.noConfusion h
    | (cases h; constructor <;> (first
        | (dsimp only [] <;>
           repeat' (first | apply ite_irq_of | apply ite_nmi_of | apply ite_fst_irq_of | apply ite_fst_nmi_of | rfl))
        | rfl))

theorem op_95_pips (step : Nat) (c : w65816_t) (pins : Nat) (r : w65816_t × Nat)
    (h : op_95 step c pins = some r) : r.1.irq_pip = c.irq_pip ∧ r.1.nmi_pip = c.nmi_pip := by
  unfold op_95 at h
  split at h <;> first
    | exact Option.noConfusion h
    | (cases h; constructor <;> (first
        | (dsimp only [] <;>
           repeat' (first | apply ite_irq_of | apply ite_nmi_of | apply ite_fst_irq_of | apply ite_fst_nmi_of | rfl))
        | rfl))

theorem op_96_pips (step : Nat) (c : w65816_t) (pins : Nat) (r : w65816_t × Nat)
    (h : op_96 step c pins = some r) : r.1.irq_pip = c.irq_pip ∧ r.1.nmi_pip = c.nmi_pip := by
  unfold op_96 at h
  split at h <;> first
    | exact Option.noConfusion h
    | (cases h; constructor <;> (first
        | (dsimp only [] <;>
           repeat' (first | apply ite_irq_of | apply ite_nmi_of | apply ite_fst_irq_of | apply ite_fst_nmi_of | rfl))
        | rfl))

theorem op_97_pips (step : Nat) (c : w65816_t) (pins : Nat) (r : w65816_t × Nat)
    (h : op_97 step c pins = some r) : r.1.irq_pip = c.irq_pip ∧ r.1.nmi_pip = c.nmi_pip := by
  unfold op_97 at h
  split at h <;> first
    | exact Option.noConfusion h
    | (cases h; constructor <;> (first
        | (dsimp only [] <;>
           repeat' (first | apply ite_irq_of | apply ite_nmi_of | apply ite_fst_irq_of | apply ite_fst_nmi_of | rfl))
        | rfl))

theorem op_98_pips (step : Nat) (c : w65816_t) (pins : Nat) (r : w65816_t × Nat)
    (h : op_98 step c pins = some r) : r.1.irq_pip = c.irq_pip ∧ r.1.nmi_pip = c.nmi_pip := by
  unfold op_98 at h
  split at h <;> first
    | exact Option.noConfusion h
    | (cases h; constructor <;> (first
        | (dsimp only [set_A, _NZ] <;>
           repeat' (first | apply ite_irq_of | apply ite_nmi_of | apply ite_fst_irq_of | apply ite_fst_nmi_of | rfl))
        | rfl))

theorem op_99_pips (step : Nat) (c : w65816_t) (pins : Nat) (r : w65816_t × Nat)
    (h : op_99 step c pins = some r) : r.1.irq_pip = c.irq_pip ∧ r.1.nmi_pip = c.nmi_pip := by
  unfold op_99 at h
  split at h <;> first
    | exact Option.noConfusion h
    | (cases h; constructor <;> (first
        | (dsimp only [] <;>
           repeat' (first | apply ite_irq_of | apply ite_nmi_of | apply ite_fst_irq_of | apply ite_fst_nmi_of | rfl))
        | rfl))

theorem op_9A_pips (step : Nat) (c : w65816_t) (pins : Nat) (r : w65816_t × Nat)
    (h : op_9A step c pins = some r) : r.1.irq_pip = c.irq_pip ∧ r.1.nmi_pip = c.nmi_pip := by
  unfold op_9A at h
  split at h <;> first
    | exact Option.noConfusion h
    | (cases h; constructor <;> (first
        | (dsimp only [set_S] <;>
           repeat' (first | apply ite_irq_of | apply ite_nmi_of | apply ite_fst_irq_of | apply ite_fst_nmi_of | rfl))
        | rfl))

theorem op_9B_pips (step : Nat) (c : w65816_t) (pins : Nat) (r : w65816_t × Nat)
    (h : op_9B step c pins = some r) : r.1.irq_pip = c.irq_pip ∧ r.1.nmi_pip = c.nmi_pip := by
  unfold op_9B at h
  split at h <;> first
    | exact Option.noConfusion h
    | (cases h; constructor <;> (first
        | (dsimp only [set_Y, _NZ] <;>
           repeat' (first | apply ite_irq_of | apply ite_nmi_of | apply ite_fst_irq_of | apply ite_fst_nmi_of | rfl))
        | rfl))

theorem op_9C_pips (step : Nat) (c : w65816_t) (pins : Nat) (r : w65816_t × Nat)
    (h : op_9C step c pins = some r) : r.1.irq_pip = c.irq_pip ∧ r.1.nmi_pip = c.nmi_pip := by
  unfold op_9C at h
  split at h <;> first
    | exact Option.noConfusion h
    | (cases h; constructor <;> (first
        | (dsimp only [] <;>
           repeat' (first | apply ite_irq_of | apply ite_nmi_of | apply ite_fst_irq_of | apply ite_fst_nmi_of | rfl))
        | rfl))

theorem op_9D_pips (step : Nat) (c : w65816_t) (pins : Nat) (r : w65816_t × Nat)
    (h : op_9D step c pins = some r) : r.1.irq_pip = c.irq_pip ∧ r.1.nmi_pip = c.nmi_pip := by
  unfold op_9D at h
  split at h <;> first
    | exact Option.noConfusion h
    | (cases h; constructor <;> (first
        | (dsimp only [] <;>
           repeat' (first | apply ite_irq_of | apply ite_nmi_of | apply ite_fst_irq_of | apply ite_fst_nmi_of | rfl))
        | rfl))

theorem op_9E_pips (step : Nat) (c : w65816_t) (pins : Nat) (r : w65816_t × Nat)
    (h : op_9E step c pins = some r) : r.1.irq_pip = c.irq_pip ∧ r.1.nmi_pip = c.nmi_pip := by
  unfold op_9E at h
  split at h <;> first
    | exact Option.noConfusion h
    | (cases h; constructor <;> (first
        | (dsimp only [] <;>
           repeat' (first | apply ite_irq_of | apply ite_nmi_of | apply ite_fst_irq_of | apply ite_fst_nmi_of | rfl))
        | rfl))

theorem op_9F_pips (step : Nat) (c : w65816_t) (pins : Nat) (r : w65816_t × Nat)
    (h : op_9F step c pins = some r) : r.1.irq_pip = c.irq_pip ∧ r.1.nmi_pip = c.nmi_pip := by
  unfold op_9F at h
  split at h <;> first
    | exact Option.noConfusion h
    | (cases h; constructor <;> (first
        | (dsimp only [] <;>
           repeat' (first | apply ite_irq_of | apply ite_nmi_of | apply ite_fst_irq_of | apply ite_fst_nmi_of | rfl))
        | rfl))

theorem op_A0_pips (step : Nat) (c : w65816_t) (pins : Nat) (r : w65816_t × Nat)
    (h : op_A0 step c pins = some r) : r.1.irq_pip = c.irq_pip ∧ r.1.nmi_pip = c.nmi_pip := by
  unfold op_A0 at h
  split at h <;> first
    | exact Option.noConfusion h
    | (cases h; constructor <;> (first
        | (dsimp only [set_Y, set_YH, _NZ, _NZ16] <;>
           repeat' (first | apply ite_irq_of | apply ite_nmi_of | apply ite_fst_irq_of | apply ite_fst_nmi_of | rfl))
        | rfl))

theorem op_A1_pips (step : Nat) (c : w65816_t) (pins : Nat) (r : w65816_t × Nat)
    (h : op_A1 step c pins = some r) : r.1.irq_pip = c.irq_pip ∧ r.1.nmi_pip = c.nmi_pip := by
  unfold op_A1 at h
  split at h <;> first
    | exact Option.noConfusion h
    | (cases h; constructor <;> (first
        | (dsimp only [set_A, set_B, _NZ, _NZ16] <;>
           repeat' (first | apply ite_irq_of | apply ite_nmi_of | apply ite_fst_irq_of | apply ite_fst_nmi_of | rfl))
        | rfl))

theorem op_A2_pips (step : Nat) (c : w65816_t) (pins : Nat) (r : w65816_t × Nat)
    (h : op_A2 step c pins = some r) : r.1.irq_pip = c.irq_pip ∧ r.1.nmi_pip = c.nmi_pip := by
  unfold op_A2 at h
  split at h <;> first
    | exact Option.noConfusion h
    | (cases h; constructor <;> (first
        | (dsimp only [set_X, set_XH, _NZ, _NZ16] <;>
           repeat' (first | apply ite_irq_of | apply ite_nmi_of | apply ite_fst_irq_of | apply ite_fst_nmi_of | rfl))
        | rfl))

theorem op_A3_pips (step : Nat) (c : w65816_t) (pins : Nat) (r : w65816_t × Nat)
    (h : op_A3 step c pins = some r) : r.1.irq_pip = c.irq_pip ∧ r.1.nmi_pip = c.nmi_pip := by
  unfold op_A3 at h
  split at h <;> first
    | exact Option.noConfusion h
    | (cases h; constructor <;> (first
        | (dsimp only [set_A, set_B, _NZ, _NZ16] <;>
           repeat' (first | apply ite_irq_of | apply ite_nmi_of | apply ite_fst_irq_of | apply ite_fst_nmi_of | rfl))
        | rfl))

theorem op_A4_pips (step : Nat) (c : w65816_t) (pins : Nat) (r : w65816_t × Nat)
    (h : op_A4 step c pins = some r) : r.1.irq_pip = c.irq_pip ∧ r.1.nmi_pip = c.nmi_pip := by
  unfold op_A4 at h
  split at h <;> first
    | exact Option.noConfusion h
    | (cases h; constructor <;> (first
        | (dsimp only [set_Y, set_YH, _NZ, _NZ16] <;>
           repeat' (first | apply ite_irq_of | apply ite_nmi_of | apply ite_fst_irq_of | apply ite_fst_nmi_of | rfl))
        | rfl))

theorem op_A5_pips (step : Nat) (c : w65816_t) (pins : Nat) (r : w65816_t × Nat)
    (h : op_A5 step c pins = some r) : r.1.irq_pip = c.irq_pip ∧ r.1.nmi_pip = c.nmi_pip := by
  unfold op_A5 at h
  split at h <;> first
    | exact Option.noConfusion h
    | (cases h; constructor <;> (first
        | (dsimp only [set_A, set_B, _NZ, _NZ16] <;>
           repeat' (first | apply ite_irq_of | apply ite_nmi_of | apply ite_fst_irq_of | apply ite_fst_nmi_of | rfl))
        | rfl))

theorem op_A6_pips (step : Nat) (c : w65816_t) (pins : Nat) (r : w65816_t × Nat)
    (h : op_A6 step c pins = some r) : r.1.irq_pip = c.irq_pip ∧ r.1.nmi_pip = c.nmi_pip := by
  unfold op_A6 at h
  split at h <;> first
    | exact Option.noConfusion h
    | (cases h; constructor <;> (first
        | (dsimp only [set_X, set_XH, _NZ, _NZ16] <;>
           repeat' (first | apply ite_irq_of | apply ite_nmi_of | apply ite_fst_irq_of | apply ite_fst_nmi_of | rfl))
        | rfl))

theorem op_A7_pips (step : Nat) (c : w65816_t) (pins : Nat) (r : w65816_t × Nat)
    (h : op_A7 step c pins = some r) : r.1.irq_pip = c.irq_pip ∧ r.1.nmi_pip = c.nmi_pip := by
  unfold op_A7 at h
  split at h <;> first
    | exact Option.noConfusion h
    | (cases h; constructor <;> (first
        | (dsimp only [set_A, set_B, _NZ, _NZ16] <;>
           repeat' (first | apply ite_irq_of | apply ite_nmi_of | apply ite_fst_irq_of | apply ite_fst_nmi_of | rfl))
        | rfl))

theorem op_A8_pips (step : Nat) (c : w65816_t) (pins : Nat) (r : w65816_t × Nat)
    (h : op_A8 step c pins = some r) : r.1.irq_pip = c.irq_pip ∧ r.1.nmi_pip = c.nmi_pip := by
  unfold op_A8 at h
  split at h <;> first
    | exact Option.noConfusion h
    | (cases h; constructor <;> (first
        | (dsimp only [set_Y, _NZ] <;>
           repeat' (first | apply ite_irq_of | apply ite_nmi_of | apply ite_fst_irq_of | apply ite_fst_nmi_of | rfl))
        | rfl))

theorem op_A9_pips (step : Nat) (c : w65816_t) (pins : Nat) (r : w65816_t × Nat)
    (h : op_A9 step c pins = some r) : r.1.irq_pip = c.irq_pip ∧ r.1.nmi_pip = c.nmi_pip := by
  unfold op_A9 at h
  split at h <;> first
    | exact Option.noConfusion h
    | (cases h; constructor <;> (first
        | (dsimp only [set_A, set_B, _NZ, _NZ16] <;>
           repeat' (first | apply ite_irq_of | apply ite_nmi_of | apply ite_fst_irq_of | apply ite_fst_nmi_of | rfl))
        | rfl))

theorem op_AA_pips (step : Nat) (c : w65816_t) (pins : Nat) (r : w65816_t × Nat)
    (h : op_AA step c pins = some r) : r.1.irq_pip = c.irq_pip ∧ r.1.nmi_pip = c.nmi_pip := by
  unfold op_AA at h
  split at h <;> first
    | exact Option.noConfusion h
    | (cases h; constructor <;> (first
        | (dsimp only [set_X, _NZ] <;>
           repeat' (first | apply ite_irq_of | apply ite_nmi_of | apply ite_fst_irq_of | apply ite_fst_nmi_of | rfl))
        | rfl))

theorem op_AB_pips (step : Nat) (c : w65816_t) (pins : Nat) (r : w65816_t × Nat)
    (h : op_AB step c pins = some r) : r.1.irq_pip = c.irq_pip ∧ r.1.nmi_pip = c.nmi_pip := by
  unfold op_AB at h
  split at h <;> first
    | exact Option.noConfusion h
    | (cases h; constructor <;> (first
        | (dsimp only [set_S, _NZ] <;>
           repeat' (first | apply ite_irq_of | apply ite_nmi_of | apply ite_fst_irq_of | apply ite_fst_nmi_of | rfl))
        | rfl))

theorem op_AC_pips (step : Nat) (c : w65816_t) (pins : Nat) (r : w65816_t × Nat)
    (h : op_AC step c pins = some r) : r.1.irq_pip = c.irq_pip ∧ r.1.nmi_pip = c.nmi_pip := by
  unfold op_AC at h
  split at h <;> first
    | exact Option.noConfusion h
    | (cases h; constructor <;> (first
        | (dsimp only [set_Y, set_YH, _NZ, _NZ16] <;>
           repeat' (first | apply ite_irq_of | apply ite_nmi_of | apply ite_fst_irq_of | apply ite_fst_nmi_of | rfl))
        | rfl))

theorem op_AD_pips (step : Nat) (c : w65816_t) (pins : Nat) (r : w65816_t × Nat)
    (h : op_AD step c pins = some r) : r.1.irq_pip = c.irq_pip ∧ r.1.nmi_pip = c.nmi_pip := by
  unfold op_AD at h
  split at h <;> first
    | exact Option.noConfusion h
    | (cases h; constructor <;> (first
        | (dsimp only [set_A, set_B, _NZ, _NZ16] <;>
           repeat' (first | apply ite_irq_of | apply ite_nmi_of | apply ite_fst_irq_of | apply ite_fst_nmi_of | rfl))
        | rfl))

theorem op_AE_pips (step : Nat) (c : w65816_t) (pins : Nat) (r : w65816_t × Nat)
    (h : op_AE step c pins = some r) : r.1.irq_pip = c.irq_pip ∧ r.1.nmi_pip = c.nmi_pip := by
  unfold op_AE at h
  split at h <;> first
    | exact Option.noConfusion h
    | (cases h; constructor <;> (first
        | (dsimp only [set_X, set_XH, _NZ, _NZ16] <;>
           repeat' (first | apply ite_irq_of | apply ite_nmi_of | apply ite_fst_irq_of | apply ite_fst_nmi_of | rfl))
        | rfl))

theorem op_AF_pips (step : Nat) (c : w65816_t) (pins : Nat) (r : w65816_t × Nat)
    (h : op_AF step c pins = some r) : r.1.irq_pip = c.irq_pip ∧ r.1.nmi_pip = c.nmi_pip := by
  unfold op_AF at h
  split at h <;> first
    | exact Option.noConfusion h
    | (cases h; constructor <;> (first
        | (dsimp only [set_A, set_B, _NZ, _NZ16] <;>
           repeat' (first | apply ite_irq_of | apply ite_nmi_of | apply ite_fst_irq_of | apply ite_fst_nmi_of | rfl))
        | rfl))

theorem op_B0_pips (step : Nat) (c : w65816_t) (pins : Nat) (r : w65816_t × Nat)
    (h : op_B0 step c pins = some r) :
    (step = 2 ∧ (c.AD &&& 0xFF00) = (c.PC &&& 0xFF00) →
      r.1.irq_pip = c.irq_pip >>> 1 ∧ r.1.nmi_pip = c.nmi_pip >>> 1) ∧
    (¬ (step = 2 ∧ (c.AD &&& 0xFF00) = (c.PC &&& 0xFF00)) →
      r.1.irq_pip = c.irq_pip ∧ r.1.nmi_pip = c.nmi_pip) := by
  unfold op_B0 at h
  split at h
  · cases h; exact ⟨fun hh => absurd hh.1 (by decide), fun _ => ⟨rfl, rfl⟩⟩
  · cases h; exact ⟨fun hh => absurd hh.1 (by decide), fun _ => ⟨rfl, rfl⟩⟩
  · cases h
    by_cases hp : (c.AD &&& 0xFF00) = (c.PC &&& 0xFF00)
    · refine ⟨fun _ => ?_, fun hh => absurd ⟨rfl, hp⟩ hh⟩
      dsimp only []
      rw [if_pos hp]
      exact ⟨rfl, rfl⟩
    · refine ⟨fun hh => absurd hh.2 hp, fun _ => ?_⟩
      dsimp only []
      rw [if_neg hp]
      exact ⟨rfl, rfl⟩
  · cases h; exact ⟨fun hh => absurd hh.1 (by decide), fun _ => ⟨rfl, rfl⟩⟩
  · exact Option.noConfusion h

theorem op_B1_pips (step : Nat) (c : w65816_t) (pins : Nat) (r : w65816_t × Nat)
    (h : op_B1 step c pins = some r) : r.1.irq_pip = c.irq_pip ∧ r.1.nmi_pip = c.nmi_pip := by
  unfold op_B1 at h
  split at h <;> first
    | exact Option.noConfusion h
    | (cases h; constructor <;> (first
        | (dsimp only [set_A, set_B, _NZ, _NZ16] <;>
           repeat' (first | apply ite_irq_of | apply ite_nmi_of | apply ite_fst_irq_of | apply ite_fst_nmi_of | rfl))
        | rfl))

theorem op_B2_pips (step : Nat) (c : w65816_t) (pins : Nat) (r : w65816_t × Nat)
    (h : op_B2 step c pins = some r) : r.1.irq_pip = c.irq_pip ∧ r.1.nmi_pip = c.nmi_pip := by
  unfold op_B2 at h
  split at h <;> first
    | exact Option.noConfusion h
    | (cases h; constructor <;> (first
        | (dsimp only [set_A, set_B, _NZ, _NZ16] <;>
           repeat' (first | apply ite_irq_of | apply ite_nmi_of | apply ite_fst_irq_of | apply ite_fst_nmi_of | rfl))
        | rfl))

theorem op_B3_pips (step : Nat) (c : w65816_t) (pins : Nat) (r : w65816_t × Nat)
    (h : op_B3 step c pins = some r) : r.1.irq_pip = c.irq_pip ∧ r.1.nmi_pip = c.nmi_pip := by
  unfold op_B3 at h
  split at h <;> first
    | exact Option.noConfusion h
    | (cases h; constructor <;> (first
        | (dsimp only [set_A, set_B, _NZ, _NZ16] <;>
           repeat' (first | apply ite_irq_of | apply ite_nmi_of | apply ite_fst_irq_of | apply ite_fst_nmi_of | rfl))
        | rfl))

theorem op_B4_pips (step : Nat) (c : w65816_t) (pins : Nat) (r : w65816_t × Nat)
    (h : op_B4 step c pins = some r) : r.1.irq_pip = c.irq_pip ∧ r.1.nmi_pip = c.nmi_pip := by
  unfold op_B4 at h
  split at h <;> first
    | exact Option.noConfusion h
    | (cases h; constructor <;> (first
        | (dsimp only [set_Y, set_YH, _NZ, _NZ16] <;>
           repeat' (first | apply ite_irq_of | apply ite_nmi_of | apply ite_fst_irq_of | apply ite_fst_nmi_of | rfl))
        | rfl))

theorem op_B5_pips (step : Nat) (c : w65816_t) (pins : Nat) (r : w65816_t × Nat)
    (h : op_B5 step c pins = some r) : r.1.irq_pip = c.irq_pip ∧ r.1.nmi_pip = c.nmi_pip := by
  unfold op_B5 at h
  split at h <;> first
    | exact Option.noConfusion h
    | (cases h; constructor <;> (first
        | (dsimp only [set_A, set_B, _NZ, _NZ16] <;>
           repeat' (first | apply ite_irq_of | apply ite_nmi_of | apply ite_fst_irq_of | apply ite_fst_nmi_of | rfl))
        | rfl))

theorem op_B6_pips (step : Nat) (c : w65816_t) (pins : Nat) (r : w65816_t × Nat)
    (h : op_B6 step c pins = some r) : r.1.irq_pip = c.irq_pip ∧ r.1.nmi_pip = c.nmi_pip := by
  unfold op_B6 at h
  split at h <;> first
    | exact Option.noConfusion h
    | (cases h; constructor <;> (first
        | (dsimp only [set_X, set_XH, _NZ, _NZ16] <;>
           repeat' (first | apply ite_irq_of | apply ite_nmi_of | apply ite_fst_irq_of | apply ite_fst_nmi_of | rfl))
        | rfl))

theorem op_B7_pips (step : Nat) (c : w65816_t) (pins : Nat) (r : w65816_t × Nat)
    (h : op_B7 step c pins = some r) : r.1.irq_pip = c.irq_pip ∧ r.1.nmi_pip = c.nmi_pip := by
  unfold op_B7 at h
  split at h <;> first
    | exact Option.noConfusion h
    | (cases h; constructor <;> (first
        | (dsimp only [set_A, set_B, _NZ, _NZ16] <;>
           repeat' (first | apply ite_irq_of | apply ite_nmi_of | apply ite_fst_irq_of | apply ite_fst_nmi_of | rfl))
        | rfl))

theorem op_B8_pips (step : Nat) (c : w65816_t) (pins : Nat) (r : w65816_t × Nat)
    (h : op_B8 step c pins = some r) : r.1.irq_pip = c.irq_pip ∧ r.1.nmi_pip = c.nmi_pip := by
  unfold op_B8 at h
  split at h <;> first
    | exact Option.noConfusion h
    | (cases h; constructor <;> (first
        | (dsimp only [] <;>
           repeat' (first | apply ite_irq_of | apply ite_nmi_of | apply ite_fst_irq_of | apply ite_fst_nmi_of | rfl))
        | rfl))

theorem op_B9_pips (step : Nat) (c : w65816_t) (pins : Nat) (r : w65816_t × Nat)
    (h : op_B9 step c pins = some r) : r.1.irq_pip = c.irq_pip ∧ r.1.nmi_pip = c.nmi_pip := by
  unfold op_B9 at h
  split at h <;> first
    | exact Option.noConfusion h
    | (cases h; constructor <;> (first
        | (dsimp only [set_A, set_B, _NZ, _NZ16] <;>
           repeat' (first | apply ite_irq_of | apply ite_nmi_of | apply ite_fst_irq_of | apply ite_fst_nmi_of | rfl))
        | rfl))

theorem op_BA_pips (step : Nat) (c : w65816_t) (pins : Nat) (r : w65816_t × Nat)
    (h : op_BA step c pins = some r) : r.1.irq_pip = c.irq_pip ∧ r.1.nmi_pip = c.nmi_pip := by
  unfold op_BA at h
  split at h <;> first
    | exact Option.noConfusion h
    | (cases h; constructor <;> (first
        | (dsimp only [set_X, _NZ] <;>
           repeat' (first | apply ite_irq_of | apply ite_nmi_of | apply ite_fst_irq_of | apply ite_fst_nmi_of | rfl))
        | rfl))

theorem op_BB_pips (step : Nat) (c : w65816_t) (pins : Nat) (r : w65816_t × Nat)
    (h : op_BB step c pins = some r) : r.1.irq_pip = c.irq_pip ∧ r.1.nmi_pip = c.nmi_pip := by
  unfold op_BB at h
  split at h <;> first
    | exact Option.noConfusion h
    | (cases h; constructor <;> (first
        | (dsimp only [set_X, _NZ] <;>
           repeat' (first | apply ite_irq_of | apply ite_nmi_of | apply ite_fst_irq_of | apply ite_fst_nmi_of | rfl))
        | rfl))

theorem op_BC_pips (step : Nat) (c : w65816_t) (pins : Nat) (r : w65816_t × Nat)
    (h : op_BC step c pins = some r) : r.1.irq_pip = c.irq_pip ∧ r.1.nmi_pip = c.nmi_pip := by
  unfold op_BC at h
  split at h <;> first
    | exact Option.noConfusion h
    | (cases h; constructor <;> (first
        | (dsimp only [set_Y, set_YH, _NZ, _NZ16] <;>
           repeat' (first | apply ite_irq_of | apply ite_nmi_of | apply ite_fst_irq_of | apply ite_fst_nmi_of | rfl))
        | rfl))

theorem op_BD_pips (step : Nat) (c : w65816_t) (pins : Nat) (r : w65816_t × Nat)
    (h : op_BD step c pins = some r) : r.1.irq_pip = c.irq_pip ∧ r.1.nmi_pip = c.nmi_pip := by
  unfold op_BD at h
  split at h <;> first
    | exact Option.noConfusion h
    | (cases h; constructor <;> (first
        | (dsimp only [set_A, set_B, _NZ, _NZ16] <;>
           repeat' (first | apply ite_irq_of | apply ite_nmi_of | apply ite_fst_irq_of | apply ite_fst_nmi_of | rfl))
        | rfl))

theorem op_BE_pips (step : Nat) (c : w65816_t) (pins : Nat) (r : w65816_t × Nat)
    (h : op_BE step c pins = some r) : r.1.irq_pip = c.irq_pip ∧ r.1.nmi_pip = c.nmi_pip := by
  unfold op_BE at h
  split at h <;> first
    | exact Option.noConfusion h
    | (cases h; constructor <;> (first
        | (dsimp only [set_X, set_XH, _NZ, _NZ16] <;>
           repeat' (first | apply ite_irq_of | apply ite_nmi_of | apply ite_fst_irq_of | apply ite_fst_nmi_of | rfl))
        | rfl))

theorem op_BF_pips (step : Nat) (c : w65816_t) (pins : Nat) (r : w65816_t × Nat)
    (h : op_BF step c pins = some r) : r.1.irq_pip = c.irq_pip ∧ r.1.nmi_pip = c.nmi_pip := by
  unfold op_BF at h
  split at h <;> first
    | exact Option.noConfusion h
    | (cases h; constructor <;> (first
        | (dsimp only [set_A, set_B, _NZ, _NZ16] <;>
           repeat' (first | apply ite_irq_of | apply ite_nmi_of | apply ite_fst_irq_of | apply ite_fst_nmi_of | rfl))
        | rfl))

theorem op_C0_pips (step : Nat) (c : w65816_t) (pins : Nat) (r : w65816_t × Nat)
    (h : op_C0 step c pins = some r) : r.1.irq_pip = c.irq_pip ∧ r.1.nmi_pip = c.nmi_pip := by
  unfold op_C0 at h
  split at h <;> first
    | exact Option.noConfusion h
    | (cases h; constructor <;> (first
        | (dsimp only [_w65816_cmp] <;>
           repeat' (first | apply ite_irq_of | apply ite_nmi_of | apply ite_fst_irq_of | apply ite_fst_nmi_of | rfl))
        | rfl))

theorem op_C1_pips (step : Nat) (c : w65816_t) (pins : Nat) (r : w65816_t × Nat)
    (h : op_C1 step c pins = some r) : r.1.irq_pip = c.irq_pip ∧ r.1.nmi_pip = c.nmi_pip := by
  unfold op_C1 at h
  split at h <;> first
    | exact Option.noConfusion h
    | (cases h; constructor <;> (first
        | (dsimp only [_w65816_cmp] <;>
           repeat' (first | apply ite_irq_of | apply ite_nmi_of | apply ite_fst_irq_of | apply ite_fst_nmi_of | rfl))
        | rfl))

theorem op_C2_pips (step : Nat) (c : w65816_t) (pins : Nat) (r : w65816_t × Nat)
    (h : op_C2 step c pins = some r) : r.1.irq_pip = c.irq_pip ∧ r.1.nmi_pip = c.nmi_pip := by
  unfold op_C2 at h
  split at h <;> first
    | exact Option.noConfusion h
    | (cases h; constructor <;> (first
        | (dsimp only [] <;>
           repeat' (first | apply ite_irq_of | apply ite_nmi_of | apply ite_fst_irq_of | apply ite_fst_nmi_of | rfl))
        | rfl))

theorem op_C3_pips (step : Nat) (c : w65816_t) (pins : Nat) (r : w65816_t × Nat)
    (h : op_C3 step c pins = some r) : r.1.irq_pip = c.irq_pip ∧ r.1.nmi_pip = c.nmi_pip := by
  unfold op_C3 at h
  split at h <;> first
    | exact Option.noConfusion h
    | (cases h; constructor <;> (first
        | (dsimp only [_w65816_cmp] <;>
           repeat' (first | apply ite_irq_of | apply ite_nmi_of | apply ite_fst_irq_of | apply ite_fst_nmi_of | rfl))
        | rfl))

theorem op_C4_pips (step : Nat) (c : w65816_t) (pins : Nat) (r : w65816_t × Nat)
    (h : op_C4 step c pins = some r) : r.1.irq_pip = c.irq_pip ∧ r.1.nmi_pip = c.nmi_pip := by
  unfold op_C4 at h
  split at h <;> first
    | exact Option.noConfusion h
    | (cases h; constructor <;> (first
        | (dsimp only [_w65816_cmp] <;>
           repeat' (first | apply ite_irq_of | apply ite_nmi_of | apply ite_fst_irq_of | apply ite_fst_nmi_of | rfl))
        | rfl))

theorem op_C5_pips (step : Nat) (c : w65816_t) (pins : Nat) (r : w65816_t × Nat)
    (h : op_C5 step c pins = some r) : r.1.irq_pip = c.irq_pip ∧ r.1.nmi_pip = c.nmi_pip := by
  unfold op_C5 at h
  split at h <;> first
    | exact Option.noConfusion h
    | (cases h; constructor <;> (first
        | (dsimp only [_w65816_cmp] <;>
           repeat' (first | apply ite_irq_of | apply ite_nmi_of | apply ite_fst_irq_of | apply ite_fst_nmi_of | rfl))
        | rfl))

theorem op_C6_pips (step : Nat) (c : w65816_t) (pins : Nat) (r : w65816_t × Nat)
    (h : op_C6 step c pins = some r) : r.1.irq_pip = c.irq_pip ∧ r.1.nmi_pip = c.nmi_pip := by
  unfold op_C6 at h
  split at h
  · cases h
    constructor <;> (first
        | (dsimp only [_NZ] <;>
           repeat' (first | apply ite_irq_of | apply ite_nmi_of | apply ite_fst_irq_of | apply ite_fst_nmi_of | rfl))
        | rfl)
  · cases h
    constructor <;> (first
        | (dsimp only [_NZ] <;>
           repeat' (first | apply ite_irq_of | apply ite_nmi_of | apply ite_fst_irq_of | apply ite_fst_nmi_of | rfl))
        | rfl)
  · cases h
    constructor <;> (first
        | (dsimp only [_NZ] <;>
           repeat' (first | apply ite_irq_of | apply ite_nmi_of | apply ite_fst_irq_of | apply ite_fst_nmi_of | rfl))
        | rfl)
  · cases h
    exact dec_AD_NZ_pips c _ _ _
  · cases h
    constructor <;> (first
        | (dsimp only [_NZ] <;>
           repeat' (first | apply ite_irq_of | apply ite_nmi_of | apply ite_fst_irq_of | apply ite_fst_nmi_of | rfl))
        | rfl)
  · exact Option.noConfusion h

theorem op_C7_pips (step : Nat) (c : w65816_t) (pins : Nat) (r : w65816_t × Nat)
    (h : op_C7 step c pins = some r) : r.1.irq_pip = c.irq_pip ∧ r.1.nmi_pip = c.nmi_pip := by
  unfold op_C7 at h
  split at h <;> first
    | exact Option.noConfusion h
    | (cases h; constructor <;> (first
        | (dsimp only [_w65816_cmp] <;>
           repeat' (first | apply ite_irq_of | apply ite_nmi_of | apply ite_fst_irq_of | apply ite_fst_nmi_of | rfl))
        | rfl))

theorem op_C8_pips (step : Nat) (c : w65816_t) (pins : Nat) (r : w65816_t × Nat)
    (h : op_C8 step c pins = some r) : r.1.irq_pip = c.irq_pip ∧ r.1.nmi_pip = c.nmi_pip := by
  unfold op_C8 at h
  split at h <;> first
    | exact Option.noConfusion h
    | (cases h; constructor <;> (first
        | (dsimp only [set_Y, _NZ] <;>
           repeat' (first | apply ite_irq_of | apply ite_nmi_of | apply ite_fst_irq_of | apply ite_fst_nmi_of | rfl))
        | rfl))

theorem op_C9_pips (step : Nat) (c : w65816_t) (pins : Nat) (r : w65816_t × Nat)
    (h : op_C9 step c pins = some r) : r.1.irq_pip = c.irq_pip ∧ r.1.nmi_pip = c.nmi_pip := by
  unfold op_C9 at h
  split at h <;> first
    | exact Option.noConfusion h
    | (cases h; constructor <;> (first
        | (dsimp only [_w65816_cmp] <;>
           repeat' (first | apply ite_irq_of | apply ite_nmi_of | apply ite_fst_irq_of | apply ite_fst_nmi_of | rfl))
        | rfl))

theorem op_CA_pips (step : Nat) (c : w65816_t) (pins : Nat) (r : w65816_t × Nat)
    (h : op_CA step c pins = some r) : r.1.irq_pip = c.irq_pip ∧ r.1.nmi_pip = c.nmi_pip := by
  unfold op_CA at h
  split at h <;> first
    | exact Option.noConfusion h
    | (cases h; constructor <;> (first
        | (dsimp only [set_X, _NZ] <;>
           repeat' (first | apply ite_irq_of | apply ite_nmi_of | apply ite_fst_irq_of | apply ite_fst_nmi_of | rfl))
        | rfl))

theorem op_CB_pips (step : Nat) (c : w65816_t) (pins : Nat) (r : w65816_t × Nat)
    (h : op_CB step c pins = some r) : r.1.irq_pip = c.irq_pip ∧ r.1.nmi_pip = c.nmi_pip := by
  unfold op_CB at h
  split at h <;> first
    | exact Option.noConfusion h
    | (cases h; constructor <;> (first
        | (dsimp only [] <;>
           repeat' (first | apply ite_irq_of | apply ite_nmi_of | apply ite_fst_irq_of | apply ite_fst_nmi_of | rfl))
        | rfl))

theorem op_CC_pips (step : Nat) (c : w65816_t) (pins : Nat) (r : w65816_t × Nat)
    (h : op_CC step c pins = some r) : r.1.irq_pip = c.irq_pip ∧ r.1.nmi_pip = c.nmi_pip := by
  unfold op_CC at h
  split at h <;> first
    | exact Option.noConfusion h
    | (cases h; constructor <;> (first
        | (dsimp only [_w65816_cmp] <;>
           repeat' (first | apply ite_irq_of | apply ite_nmi_of | apply ite_fst_irq_of | apply ite_fst_nmi_of | rfl))
        | rfl))

theorem op_CD_pips (step : Nat) (c : w65816_t) (pins : Nat) (r : w65816_t × Nat)
    (h : op_CD step c pins = some r) : r.1.irq_pip = c.irq_pip ∧ r.1.nmi_pip = c.nmi_pip := by
  unfold op_CD at h
  split at h <;> first
    | exact Option.noConfusion h
    | (cases h; constructor <;> (first
        | (dsimp only [_w65816_cmp] <;>
           repeat' (first | apply ite_irq_of | apply ite_nmi_of | apply ite_fst_irq_of | apply ite_fst_nmi_of | rfl))
        | rfl))

theorem op_CE_pips (step : Nat) (c : w65816_t) (pins : Nat) (r : w65816_t × Nat)
    (h : op_CE step c pins = some r) : r.1.irq_pip = c.irq_pip ∧ r.1.nmi_pip = c.nmi_pip := by
  unfold op_CE at h
  split at h
  · cases h
    constructor <;> (first
        | (dsimp only [_NZ] <;>
           repeat' (first | apply ite_irq_of | apply ite_nmi_of | apply ite_fst_irq_of | apply ite_fst_nmi_of | rfl))
        | rfl)
  · cases h
    constructor <;> (first
        | (dsimp only [_NZ] <;>
           repeat' (first | apply ite_irq_of | apply ite_nmi_of | apply ite_fst_irq_of | apply ite_fst_nmi_of | rfl))
        | rfl)
  · cases h
    constructor <;> (first
        | (dsimp only [_NZ] <;>
           repeat' (first | apply ite_irq_of | apply ite_nmi_of | apply ite_fst_irq_of | apply ite_fst_nmi_of | rfl))
        | rfl)
  · cases h
    constructor <;> (first
        | (dsimp only [_NZ] <;>
           repeat' (first | apply ite_irq_of | apply ite_nmi_of | apply ite_fst_irq_of | apply ite_fst_nmi_of | rfl))
        | rfl)
  · cases h
    exact dec_AD_NZ_pips c _ _ _
  · cases h
    constructor <;> (first
        | (dsimp only [_NZ] <;>
           repeat' (first | apply ite_irq_of | apply ite_nmi_of | apply ite_fst_irq_of | apply ite_fst_nmi_of | rfl))
        | rfl)
  · exact Option.noConfusion h

theorem op_CF_pips (step : Nat) (c : w65816_t) (pins : Nat) (r : w65816_t × Nat)
    (h : op_CF step c pins = some r) : r.1.irq_pip = c.irq_pip ∧ r.1.nmi_pip = c.nmi_pip := by
  unfold op_CF at h
  split at h <;> first
    | exact Option.noConfusion h
    | (cases h; constructor <;> (first
        | (dsimp only [_w65816_cmp] <;>
           repeat' (first | apply ite_irq_of | apply ite_nmi_of | apply ite_fst_irq_of | apply ite_fst_nmi_of | rfl))
        | rfl))

theorem op_D0_pips (step : Nat) (c : w65816_t) (pins : Nat) (r : w65816_t × Nat)
    (h : op_D0 step c pins = some r) :
    (step = 2 ∧ (c.AD &&& 0xFF00) = (c.PC &&& 0xFF00) →
      r.1.irq_pip = c.irq_pip >>> 1 ∧ r.1.nmi_pip = c.nmi_pip >>> 1) ∧
    (¬ (step = 2 ∧ (c.AD &&& 0xFF00) = (c.PC &&& 0xFF00)) →
      r.1.irq_pip = c.irq_pip ∧ r.1.nmi_pip = c.nmi_pip) := by
  unfold op_D0 at h
  split at h
  · cases h; exact ⟨fun hh => absurd hh.1 (by decide), fun _ => ⟨rfl, rfl⟩⟩
  · cases h; exact ⟨fun hh => absurd hh.1 (by decide), fun _ => ⟨rfl, rfl⟩⟩
  · cases h
    by_cases hp : (c.AD &&& 0xFF00) = (c.PC &&& 0xFF00)
    · refine ⟨fun _ => ?_, fun hh => absurd ⟨rfl, hp⟩ hh⟩
      dsimp only []
      rw [if_pos hp]
      exact ⟨rfl, rfl⟩
    · refine ⟨fun hh => absurd hh.2 hp, fun _ => ?_⟩
      dsimp only []
      rw [if_neg hp]
      exact ⟨rfl, rfl⟩
  · cases h; exact ⟨fun hh => absurd hh.1 (by decide), fun _ => ⟨rfl, rfl⟩⟩
  · exact Option.noConfusion h

theorem op_D1_pips (step : Nat) (c : w65816_t) (pins : Nat) (r : w65816_t × Nat)
    (h : op_D1 step c pins = some r) : r.1.irq_pip = c.irq_pip ∧ r.1.nmi_pip = c.nmi_pip := by
  unfold op_D1 at h
  split at h <;> first
    | exact Option.noConfusion h
    | (cases h; constructor <;> (first
        | (dsimp only [_w65816_cmp] <;>
           repeat' (first | apply ite_irq_of | apply ite_nmi_of | apply ite_fst_irq_of | apply ite_fst_nmi_of | rfl))
        | rfl))

theorem op_D2_pips (step : Nat) (c : w65816_t) (pins : Nat) (r : w65816_t × Nat)
    (h : op_D2 step c pins = some r) : r.1.irq_pip = c.irq_pip ∧ r.1.nmi_pip = c.nmi_pip := by
  unfold op_D2 at h
  split at h <;> first
    | exact Option.noConfusion h
    | (cases h; constructor <;> (first
        | (dsimp only [_w65816_cmp] <;>
           repeat' (first | apply ite_irq_of | apply ite_nmi_of | apply ite_fst_irq_of | apply ite_fst_nmi_of | rfl))
        | rfl))

theorem op_D3_pips (step : Nat) (c : w65816_t) (pins : Nat) (r : w65816_t × Nat)
    (h : op_D3 step c pins = some r) : r.1.irq_pip = c.irq_pip ∧ r.1.nmi_pip = c.nmi_pip := by
  unfold op_D3 at h
  split at h <;> first
    | exact Option.noConfusion h
    | (cases h; constructor <;> (first
        | (dsimp only [_w65816_cmp] <;>
           repeat' (first | apply ite_irq_of | apply ite_nmi_of | apply ite_fst_irq_of | apply ite_fst_nmi_of | rfl))
        | rfl))

theorem op_D4_pips (step : Nat) (c : w65816_t) (pins : Nat) (r : w65816_t × Nat)
    (h : op_D4 step c pins = some r) : r.1.irq_pip = c.irq_pip ∧ r.1.nmi_pip = c.nmi_pip := by
  unfold op_D4 at h
  split at h <;> first
    | exact Option.noConfusion h
    | (cases h; constructor <;> (first
        | (dsimp only [] <;>
           repeat' (first | apply ite_irq_of | apply ite_nmi_of | apply ite_fst_irq_of | apply ite_fst_nmi_of | rfl))
        | rfl))

theorem op_D5_pips (step : Nat) (c : w65816_t) (pins : Nat) (r : w65816_t × Nat)
    (h : op_D5 step c pins = some r) : r.1.irq_pip = c.irq_pip ∧ r.1.nmi_pip = c.nmi_pip := by
  unfold op_D5 at h
  split at h <;> first
    | exact Option.noConfusion h
    | (cases h; constructor <;> (first
        | (dsimp only [_w65816_cmp] <;>
           repeat' (first | apply ite_irq_of | apply ite_nmi_of | apply ite_fst_irq_of | apply ite_fst_nmi_of | rfl))
        | rfl))

theorem op_D6_pips (step : Nat) (c : w65816_t) (pins : Nat) (r : w65816_t × Nat)
    (h : op_D6 step c pins = some r) : r.1.irq_pip = c.irq_pip ∧ r.1.nmi_pip = c.nmi_pip := by
  unfold op_D6 at h
  split at h
  · cases h
    constructor <;> (first
        | (dsimp only [_NZ] <;>
           repeat' (first | apply ite_irq_of | apply ite_nmi_of | apply ite_fst_irq_of | apply ite_fst_nmi_of | rfl))
        | rfl)
  · cases h
    constructor <;> (first
        | (dsimp only [_NZ] <;>
           repeat' (first | apply ite_irq_of | apply ite_nmi_of | apply ite_fst_irq_of | apply ite_fst_nmi_of | rfl))
        | rfl)
  · cases h
    constructor <;> (first
        | (dsimp only [_NZ] <;>
           repeat' (first | apply ite_irq_of | apply ite_nmi_of | apply ite_fst_irq_of | apply ite_fst_nmi_of | rfl))
        | rfl)
  · cases h
    constructor <;> (first
        | (dsimp only [_NZ] <;>
           repeat' (first | apply ite_irq_of | apply ite_nmi_of | apply ite_fst_irq_of | apply ite_fst_nmi_of | rfl))
        | rfl)
  · cases h
    exact dec_AD_NZ_pips c _ _ _
  · cases h
    constructor <;> (first
        | (dsimp only [_NZ] <;>
           repeat' (first | apply ite_irq_of | apply ite_nmi_of | apply ite_fst_irq_of | apply ite_fst_nmi_of | rfl))
        | rfl)
  · exact Option.noConfusion h

theorem op_D7_pips (step : Nat) (c : w65816_t) (pins : Nat) (r : w65816_t × Nat)
    (h : op_D7 step c pins = some r) : r.1.irq_pip = c.irq_pip ∧ r.1.nmi_pip = c.nmi_pip := by
  unfold op_D7 at h
  split at h <;> first
    | exact Option.noConfusion h
    | (cases h; constructor <;> (first
        | (dsimp only [_w65816_cmp] <;>
           repeat' (first | apply ite_irq_of | apply ite_nmi_of | apply ite_fst_irq_of | apply ite_fst_nmi_of | rfl))
        | rfl))

theorem op_D8_pips (step : Nat) (c : w65816_t) (pins : Nat) (r : w65816_t × Nat)
    (h : op_D8 step c pins = some r) : r.1.irq_pip = c.irq_pip ∧ r.1.nmi_pip = c.nmi_pip := by
  unfold op_D8 at h
  split at h <;> first
    | exact Option.noConfusion h
    | (cases h; constructor <;> (first
        | (dsimp only [] <;>
           repeat' (first | apply ite_irq_of | apply ite_nmi_of | apply ite_fst_irq_of | apply ite_fst_nmi_of | rfl))
        | rfl))

theorem op_D9_pips (step : Nat) (c : w65816_t) (pins : Nat) (r : w65816_t × Nat)
    (h : op_D9 step c pins = some r) : r.1.irq_pip = c.irq_pip ∧ r.1.nmi_pip = c.nmi_pip := by
  unfold op_D9 at h
  split at h <;> first
    | exact Option.noConfusion h
    | (cases h; constructor <;> (first
        | (dsimp only [_w65816_cmp] <;>
           repeat' (first | apply ite_irq_of | apply ite_nmi_of | apply ite_fst_irq_of | apply ite_fst_nmi_of | rfl))
        | rfl))

theorem op_DA_pips (step : Nat) (c : w65816_t) (pins : Nat) (r : w65816_t × Nat)
    (h : op_DA step c pins = some r) : r.1.irq_pip = c.irq_pip ∧ r.1.nmi_pip = c.nmi_pip := by
  unfold op_DA at h
  split at h <;> first
    | exact Option.noConfusion h
    | (cases h; constructor <;> (first
        | (dsimp only [set_S] <;>
           repeat' (first | apply ite_irq_of | apply ite_nmi_of | apply ite_fst_irq_of | apply ite_fst_nmi_of | rfl))
        | rfl))

theorem op_DB_pips (step : Nat) (c : w65816_t) (pins : Nat) (r : w65816_t × Nat)
    (h : op_DB step c pins = some r) : r.1.irq_pip = c.irq_pip ∧ r.1.nmi_pip = c.nmi_pip := by
  unfold op_DB at h
  split at h <;> first
    | exact Option.noConfusion h
    | (cases h; constructor <;> (first
        | (dsimp only [] <;>
           repeat' (first | apply ite_irq_of | apply ite_nmi_of | apply ite_fst_irq_of | apply ite_fst_nmi_of | rfl))
        | rfl))

theorem op_DC_pips (step : Nat) (c : w65816_t) (pins : Nat) (r : w65816_t × Nat)
    (h : op_DC step c pins = some r) : r.1.irq_pip = c.irq_pip ∧ r.1.nmi_pip = c.nmi_pip := by
  unfold op_DC at h
  split at h <;> first
    | exact Option.noConfusion h
    | (cases h; constructor <;> (first
        | (dsimp only [] <;>
           repeat' (first | apply ite_irq_of | apply ite_nmi_of | apply ite_fst_irq_of | apply ite_fst_nmi_of | rfl))
        | rfl))

theorem op_DD_pips (step : Nat) (c : w65816_t) (pins : Nat) (r : w65816_t × Nat)
    (h : op_DD step c pins = some r) : r.1.irq_pip = c.irq_pip ∧ r.1.nmi_pip = c.nmi_pip := by
  unfold op_DD at h
  split at h <;> first
    | exact Option.noConfusion h
    | (cases h; constructor <;> (first
        | (dsimp only [_w65816_cmp] <;>
           repeat' (first | apply ite_irq_of | apply ite_nmi_of | apply ite_fst_irq_of | apply ite_fst_nmi_of | rfl))
        | rfl))

theorem op_DE_pips (step : Nat) (c : w65816_t) (pins : Nat) (r : w65816_t × Nat)
    (h : op_DE step c pins = some r) : r.1.irq_pip = c.irq_pip ∧ r.1.nmi_pip = c.nmi_pip := by
  unfold op_DE at h
  split at h
  · cases h
    constructor <;> (first
        | (dsimp only [_NZ] <;>
           repeat' (first | apply ite_irq_of | apply ite_nmi_of | apply ite_fst_irq_of | apply ite_fst_nmi_of | rfl))
        | rfl)
  · cases h
    constructor <;> (first
        | (dsimp only [_NZ] <;>
           repeat' (first | apply ite_irq_of | apply ite_nmi_of | apply ite_fst_irq_of | apply ite_fst_nmi_of | rfl))
        | rfl)
  · cases h
    constructor <;> (first
        | (dsimp only [_NZ] <;>
           repeat' (first | apply ite_irq_of | apply ite_nmi_of | apply ite_fst_irq_of | apply ite_fst_nmi_of | rfl))
        | rfl)
  · cases h
    constructor <;> (first
        | (dsimp only [_NZ] <;>
           repeat' (first | apply ite_irq_of | apply ite_nmi_of | apply ite_fst_irq_of | apply ite_fst_nmi_of | rfl))
        | rfl)
  · cases h
    constructor <;> (first
        | (dsimp only [_NZ] <;>
           repeat' (first | apply ite_irq_of | apply ite_nmi_of | apply ite_fst_irq_of | apply ite_fst_nmi_of | rfl))
        | rfl)
  · cases h
    exact dec_AD_NZ_pips c _ _ _
  · cases h
    constructor <;> (first
        | (dsimp only [_NZ] <;>
           repeat' (first | apply ite_irq_of | apply ite_nmi_of | apply ite_fst_irq_of | apply ite_fst_nmi_of | rfl))
        | rfl)
  · exact Option.noConfusion h

theorem op_DF_pips (step : Nat) (c : w65816_t) (pins : Nat) (r : w65816_t × Nat)
    (h : op_DF step c pins = some r) : r.1.irq_pip = c.irq_pip ∧ r.1.nmi_pip = c.nmi_pip := by
  unfold op_DF at h
  split at h <;> first
    | exact Option.noConfusion h
    | (cases h; constructor <;> (first
        | (dsimp only [_w65816_cmp] <;>
           repeat' (first | apply ite_irq_of | apply ite_nmi_of | apply ite_fst_irq_of | apply ite_fst_nmi_of | rfl))
        | rfl))

theorem op_E0_pips (step : Nat) (c : w65816_t) (pins : Nat) (r : w65816_t × Nat)
    (h : op_E0 step c pins = some r) : r.1.irq_pip = c.irq_pip ∧ r.1.nmi_pip = c.nmi_pip := by
  unfold op_E0 at h
  split at h <;> first
    | exact Option.noConfusion h
    | (cases h; constructor <;> (first
        | (dsimp only [_w65816_cmp] <;>
           repeat' (first | apply ite_irq_of | apply ite_nmi_of | apply ite_fst_irq_of | apply ite_fst_nmi_of | rfl))
        | rfl))

theorem op_E1_pips (step : Nat) (c : w65816_t) (pins : Nat) (r : w65816_t × Nat)
    (h : op_E1 step c pins = some r) : r.1.irq_pip = c.irq_pip ∧ r.1.nmi_pip = c.nmi_pip := by
  unfold op_E1 at h
  split at h <;> first
    | exact Option.noConfusion h
    | (cases h; constructor <;> (first
        | (dsimp only [] <;>
           repeat' (first | apply ite_irq_of | apply ite_nmi_of | apply ite_fst_irq_of | apply ite_fst_nmi_of | apply sbc_irq | apply sbc_nmi | rfl))
        | rfl))

theorem op_E2_pips (step : Nat) (c : w65816_t) (pins : Nat) (r : w65816_t × Nat)
    (h : op_E2 step c pins = some r) : r.1.irq_pip = c.irq_pip ∧ r.1.nmi_pip = c.nmi_pip := by
  unfold op_E2 at h
  split at h <;> first
    | exact Option.noConfusion h
    | (cases h; constructor <;> (first
        | (dsimp only [] <;>
           repeat' (first | apply ite_irq_of | apply ite_nmi_of | apply ite_fst_irq_of | apply ite_fst_nmi_of | rfl))
        | rfl))

theorem op_E3_pips (step : Nat) (c : w65816_t) (pins : Nat) (r : w65816_t × Nat)
    (h : op_E3 step c pins = some r) : r.1.irq_pip = c.irq_pip ∧ r.1.nmi_pip = c.nmi_pip := by
  unfold op_E3 at h
  split at h <;> first
    | exact Option.noConfusion h
    | (cases h; constructor <;> (first
        | (dsimp only [] <;>
           repeat' (first | apply ite_irq_of | apply ite_nmi_of | apply ite_fst_irq_of | apply ite_fst_nmi_of | apply sbc_irq | apply sbc_nmi | rfl))
        | rfl))

theorem op_E4_pips (step : Nat) (c : w65816_t) (pins : Nat) (r : w65816_t × Nat)
    (h : op_E4 step c pins = some r) : r.1.irq_pip = c.irq_pip ∧ r.1.nmi_pip = c.nmi_pip := by
  unfold op_E4 at h
  split at h <;> first
    | exact Option.noConfusion h
    | (cases h; constructor <;> (first
        | (dsimp only [_w65816_cmp] <;>
           repeat' (first | apply ite_irq_of | apply ite_nmi_of | apply ite_fst_irq_of | apply ite_fst_nmi_of | rfl))
        | rfl))

theorem op_E5_pips (step : Nat) (c : w65816_t) (pins : Nat) (r : w65816_t × Nat)
    (h : op_E5 step c pins = some r) : r.1.irq_pip = c.irq_pip ∧ r.1.nmi_pip = c.nmi_pip := by
  unfold op_E5 at h
  split at h <;> first
    | exact Option.noConfusion h
    | (cases h; constructor <;> (first
        | (dsimp only [] <;>
           repeat' (first | apply ite_irq_of | apply ite_nmi_of | apply ite_fst_irq_of | apply ite_fst_nmi_of | apply sbc_irq | apply sbc_nmi | rfl))
        | rfl))

theorem op_E6_pips (step : Nat) (c : w65816_t) (pins : Nat) (r : w65816_t × Nat)
    (h : op_E6 step c pins = some r) : r.1.irq_pip = c.irq_pip ∧ r.1.nmi_pip = c.nmi_pip := by
  unfold op_E6 at h
  split at h <;> first
    | exact Option.noConfusion h
    | (cases h; constructor <;> (first
        | (dsimp only [_NZ] <;>
           repeat' (first | apply ite_irq_of | apply ite_nmi_of | apply ite_fst_irq_of | apply ite_fst_nmi_of | rfl))
        | rfl))

theorem op_E7_pips (step : Nat) (c : w65816_t) (pins : Nat) (r : w65816_t × Nat)
    (h : op_E7 step c pins = some r) : r.1.irq_pip = c.irq_pip ∧ r.1.nmi_pip = c.nmi_pip := by
  unfold op_E7 at h
  split at h <;> first
    | exact Option.noConfusion h
    | (cases h; constructor <;> (first
        | (dsimp only [] <;>
           repeat' (first | apply ite_irq_of | apply ite_nmi_of | apply ite_fst_irq_of | apply ite_fst_nmi_of | apply sbc_irq | apply sbc_nmi | rfl))
        | rfl))

theorem op_E8_pips (step : Nat) (c : w65816_t) (pins : Nat) (r : w65816_t × Nat)
    (h : op_E8 step c pins = some r) : r.1.irq_pip = c.irq_pip ∧ r.1.nmi_pip = c.nmi_pip := by
  unfold op_E8 at h
  split at h <;> first
    | exact Option.noConfusion h
    | (cases h; constructor <;> (first
        | (dsimp only [set_X, _NZ] <;>
           repeat' (first | apply ite_irq_of | apply ite_nmi_of | apply ite_fst_irq_of | apply ite_fst_nmi_of | rfl))
        | rfl))

theorem op_E9_pips (step : Nat) (c : w65816_t) (pins : Nat) (r : w65816_t × Nat)
    (h : op_E9 step c pins = some r) : r.1.irq_pip = c.irq_pip ∧ r.1.nmi_pip = c.nmi_pip := by
  unfold op_E9 at h
  split at h <;> first
    | exact Option.noConfusion h
    | (cases h; constructor <;> (first
        | (dsimp only [] <;>
           repeat' (first | apply ite_irq_of | apply ite_nmi_of | apply ite_fst_irq_of | apply ite_fst_nmi_of | apply sbc_irq | apply sbc_nmi | rfl))
        | rfl))

theorem op_EA_pips (step : Nat) (c : w65816_t) (pins : Nat) (r : w65816_t × Nat)
    (h : op_EA step c pins = some r) : r.1.irq_pip = c.irq_pip ∧ r.1.nmi_pip = c.nmi_pip := by
  unfold op_EA at h
  split at h <;> first
    | exact Option.noConfusion h
    | (cases h; constructor <;> (first
        | (dsimp only [] <;>
           repeat' (first | apply ite_irq_of | apply ite_nmi_of | apply ite_fst_irq_of | apply ite_fst_nmi_of | rfl))
        | rfl))

theorem op_EB_pips (step : Nat) (c : w65816_t) (pins : Nat) (r : w65816_t × Nat)
    (h : op_EB step c pins = some r) : r.1.irq_pip = c.irq_pip ∧ r.1.nmi_pip = c.nmi_pip := by
  unfold op_EB at h
  split at h <;> first
    | exact Option.noConfusion h
    | (cases h; constructor <;> (first
        | (dsimp only [set_A, set_B, _w65816_xba] <;>
           repeat' (first | apply ite_irq_of | apply ite_nmi_of | apply ite_fst_irq_of | apply ite_fst_nmi_of | rfl))
        | rfl))

theorem op_EC_pips (step : Nat) (c : w65816_t) (pins : Nat) (r : w65816_t × Nat)
    (h : op_EC step c pins = some r) : r.1.irq_pip = c.irq_pip ∧ r.1.nmi_pip = c.nmi_pip := by
  unfold op_EC at h
  split at h <;> first
    | exact Option.noConfusion h
    | (cases h; constructor <;> (first
        | (dsimp only [_w65816_cmp] <;>
           repeat' (first | apply ite_irq_of | apply ite_nmi_of | apply ite_fst_irq_of | apply ite_fst_nmi_of | rfl))
        | rfl))

theorem op_ED_pips (step : Nat) (c : w65816_t) (pins : Nat) (r : w65816_t × Nat)
    (h : op_ED step c pins = some r) : r.1.irq_pip = c.irq_pip ∧ r.1.nmi_pip = c.nmi_pip := by
  unfold op_ED at h
  split at h <;> first
    | exact Option.noConfusion h
    | (cases h; constructor <;> (first
        | (dsimp only [] <;>
           repeat' (first | apply ite_irq_of | apply ite_nmi_of | apply ite_fst_irq_of | apply ite_fst_nmi_of | apply sbc_irq | apply sbc_nmi | rfl))
        | rfl))

theorem op_EE_pips (step : Nat) (c : w65816_t) (pins : Nat) (r : w65816_t × Nat)
    (h : op_EE step c pins = some r) : r.1.irq_pip = c.irq_pip ∧ r.1.nmi_pip = c.nmi_pip := by
  unfold op_EE at h
  split at h <;> first
    | exact Option.noConfusion h
    | (cases h; constructor <;> (first
        | (dsimp only [_NZ] <;>
           repeat' (first | apply ite_irq_of | apply ite_nmi_of | apply ite_fst_irq_of | apply ite_fst_nmi_of | rfl))
        | rfl))

theorem op_EF_pips (step : Nat) (c : w65816_t) (pins : Nat) (r : w65816_t × Nat)
    (h : op_EF step c pins = some r) : r.1.irq_pip = c.irq_pip ∧ r.1.nmi_pip = c.nmi_pip := by
  unfold op_EF at h
  split at h <;> first
    | exact Option.noConfusion h
    | (cases h; constructor <;> (first
        | (dsimp only [] <;>
           repeat' (first | apply ite_irq_of | apply ite_nmi_of | apply ite_fst_irq_of | apply ite_fst_nmi_of | apply sbc_irq | apply sbc_nmi | rfl))
        | rfl))

theorem op_F0_pips (step : Nat) (c : w65816_t) (pins : Nat) (r : w65816_t × Nat)
    (h : op_F0 step c pins = some r) :
    (step = 2 ∧ (c.AD &&& 0xFF00) = (c.PC &&& 0xFF00) →
      r.1.irq_pip = c.irq_pip >>> 1 ∧ r.1.nmi_pip = c.nmi_pip >>> 1) ∧
    (¬ (step = 2 ∧ (c.AD &&& 0xFF00) = (c.PC &&& 0xFF00)) →
      r.1.irq_pip = c.irq_pip ∧ r.1.nmi_pip = c.nmi_pip) := by
  unfold op_F0 at h
  split at h
  · cases h; exact ⟨fun hh => absurd hh.1 (by decide), fun _ => ⟨rfl, rfl⟩⟩
  · cases h; exact ⟨fun hh => absurd hh.1 (by decide), fun _ => ⟨rfl, rfl⟩⟩
  · cases h
    by_cases hp : (c.AD &&& 0xFF00) = (c.PC &&& 0xFF00)
    · refine ⟨fun _ => ?_, fun hh => absurd ⟨rfl, hp⟩ hh⟩
      dsimp only []
      rw [if_pos hp]
      exact ⟨rfl, rfl⟩
    · refine ⟨fun hh => absurd hh.2 hp, fun _ => ?_⟩
      dsimp only []
      rw [if_neg hp]
      exact ⟨rfl, rfl⟩
  · cases h; exact ⟨fun hh => absurd hh.1 (by decide), fun _ => ⟨rfl, rfl⟩⟩
  · exact Option.noConfusion h

theorem op_F1_pips (step : Nat) (c : w65816_t) (pins : Nat) (r : w65816_t × Nat)
    (h : op_F1 step c pins = some r) : r.1.irq_pip = c.irq_pip ∧ r.1.nmi_pip = c.nmi_pip := by
  unfold op_F1 at h
  split at h <;> first
    | exact Option.noConfusion h
    | (cases h; constructor <;> (first
        | (dsimp only [] <;>
           repeat' (first | apply ite_irq_of | apply ite_nmi_of | apply ite_fst_irq_of | apply ite_fst_nmi_of | apply sbc_irq | apply sbc_nmi | rfl))
        | rfl))

theorem op_F2_pips (step : Nat) (c : w65816_t) (pins : Nat) (r : w65816_t × Nat)
    (h : op_F2 step c pins = some r) : r.1.irq_pip = c.irq_pip ∧ r.1.nmi_pip = c.nmi_pip := by
  unfold op_F2 at h
  split at h <;> first
    | exact Option.noConfusion h
    | (cases h; constructor <;> (first
        | (dsimp only [] <;>
           repeat' (first | apply ite_irq_of | apply ite_nmi_of | apply ite_fst_irq_of | apply ite_fst_nmi_of | apply sbc_irq | apply sbc_nmi | rfl))
        | rfl))

theorem op_F3_pips (step : Nat) (c : w65816_t) (pins : Nat) (r : w65816_t × Nat)
    (h : op_F3 step c pins = some r) : r.1.irq_pip = c.irq_pip ∧ r.1.nmi_pip = c.nmi_pip := by
  unfold op_F3 at h
  split at h <;> first
    | exact Option.noConfusion h
    | (cases h; constructor <;> (first
        | (dsimp only [] <;>
           repeat' (first | apply ite_irq_of | apply ite_nmi_of | apply ite_fst_irq_of | apply ite_fst_nmi_of | apply sbc_irq | apply sbc_nmi | rfl))
        | rfl))

theorem op_F4_pips (step : Nat) (c : w65816_t) (pins : Nat) (r : w65816_t × Nat)
    (h : op_F4 step c pins = some r) : r.1.irq_pip = c.irq_pip ∧ r.1.nmi_pip = c.nmi_pip := by
  unfold op_F4 at h
  split at h <;> first
    | exact Option.noConfusion h
    | (cases h; constructor <;> (first
        | (dsimp only [] <;>
           repeat' (first | apply ite_irq_of | apply ite_nmi_of | apply ite_fst_irq_of | apply ite_fst_nmi_of | rfl))
        | rfl))

theorem op_F5_pips (step : Nat) (c : w65816_t) (pins : Nat) (r : w65816_t × Nat)
    (h : op_F5 step c pins = some r) : r.1.irq_pip = c.irq_pip ∧ r.1.nmi_pip = c.nmi_pip := by
  unfold op_F5 at h
  split at h <;> first
    | exact Option.noConfusion h
    | (cases h; constructor <;> (first
        | (dsimp only [] <;>
           repeat' (first | apply ite_irq_of | apply ite_nmi_of | apply ite_fst_irq_of | apply ite_fst_nmi_of | apply sbc_irq | apply sbc_nmi | rfl))
        | rfl))

theorem op_F6_pips (step : Nat) (c : w65816_t) (pins : Nat) (r : w65816_t × Nat)
    (h : op_F6 step c pins = some r) : r.1.irq_pip = c.irq_pip ∧ r.1.nmi_pip = c.nmi_pip := by
  unfold op_F6 at h
  split at h <;> first
    | exact Option.noConfusion h
    | (cases h; constructor <;> (first
        | (dsimp only [_NZ] <;>
           repeat' (first | apply ite_irq_of | apply ite_nmi_of | apply ite_fst_irq_of | apply ite_fst_nmi_of | rfl))
        | rfl))

theorem op_F7_pips (step : Nat) (c : w65816_t) (pins : Nat) (r : w65816_t × Nat)
    (h : op_F7 step c pins = some r) : r.1.irq_pip = c.irq_pip ∧ r.1.nmi_pip = c.nmi_pip := by
  unfold op_F7 at h
  split at h <;> first
    | exact Option.noConfusion h
    | (cases h; constructor <;> (first
        | (dsimp only [] <;>
           repeat' (first | apply ite_irq_of | apply ite_nmi_of | apply ite_fst_irq_of | apply ite_fst_nmi_of | apply sbc_irq | apply sbc_nmi | rfl))
        | rfl))

theorem op_F8_pips (step : Nat) (c : w65816_t) (pins : Nat) (r : w65816_t × Nat)
    (h : op_F8 step c pins = some r) : r.1.irq_pip = c.irq_pip ∧ r.1.nmi_pip = c.nmi_pip := by
  unfold op_F8 at h
  split at h <;> first
    | exact Option.noConfusion h
    | (cases h; constructor <;> (first
        | (dsimp only [] <;>
           repeat' (first | apply ite_irq_of | apply ite_nmi_of | apply ite_fst_irq_of | apply ite_fst_nmi_of | rfl))
        | rfl))

theorem op_F9_pips (step : Nat) (c : w65816_t) (pins : Nat) (r : w65816_t × Nat)
    (h : op_F9 step c pins = some r) : r.1.irq_pip = c.irq_pip ∧ r.1.nmi_pip = c.nmi_pip := by
  unfold op_F9 at h
  split at h <;> first
    | exact Option.noConfusion h
    | (cases h; constructor <;> (first
        | (dsimp only [] <;>
           repeat' (first | apply ite_irq_of | apply ite_nmi_of | apply ite_fst_irq_of | apply ite_fst_nmi_of | apply sbc_irq | apply sbc_nmi | rfl))
        | rfl))

theorem op_FA_pips (step : Nat) (c : w65816_t) (pins : Nat) (r : w65816_t × Nat)
    (h : op_FA step c pins = some r) : r.1.irq_pip = c.irq_pip ∧ r.1.nmi_pip = c.nmi_pip := by
  unfold op_FA at h
  split at h <;> first
    | exact Option.noConfusion h
    | (cases h; constructor <;> (first
        | (dsimp only [set_X, set_S, _NZ] <;>
           repeat' (first | apply ite_irq_of | apply ite_nmi_of | apply ite_fst_irq_of | apply ite_fst_nmi_of | rfl))
        | rfl))

theorem op_FB_pips (step : Nat) (c : w65816_t) (pins : Nat) (r : w65816_t × Nat)
    (h : op_FB step c pins = some r) : r.1.irq_pip = c.irq_pip ∧ r.1.nmi_pip = c.nmi_pip := by
  unfold op_FB at h
  split at h <;> first
    | exact Option.noConfusion h
    | (cases h; constructor <;> (first
        | (dsimp only [] <;>
           repeat' (first | apply ite_irq_of | apply ite_nmi_of | apply ite_fst_irq_of | apply ite_fst_nmi_of | apply xce_irq | apply xce_nmi | rfl))
        | rfl))

theorem op_FC_pips (step : Nat) (c : w65816_t) (pins : Nat) (r : w65816_t × Nat)
    (h : op_FC step c pins = some r) : r.1.irq_pip = c.irq_pip ∧ r.1.nmi_pip = c.nmi_pip := by
  unfold op_FC at h
  split at h <;> first
    | exact Option.noConfusion h
    | (cases h; constructor <;> (first
        | (dsimp only [set_S] <;>
           repeat' (first | apply ite_irq_of | apply ite_nmi_of | apply ite_fst_irq_of | apply ite_fst_nmi_of | rfl))
        | rfl))

theorem op_FD_pips (step : Nat) (c : w65816_t) (pins : Nat) (r : w65816_t × Nat)
    (h : op_FD step c pins = some r) : r.1.irq_pip = c.irq_pip ∧ r.1.nmi_pip = c.nmi_pip := by
  unfold op_FD at h
  split at h <;> first
    | exact Option.noConfusion h
    | (cases h; constructor <;> (first
        | (dsimp only [] <;>
           repeat' (first | apply ite_irq_of | apply ite_nmi_of | apply ite_fst_irq_of | apply ite_fst_nmi_of | apply sbc_irq | apply sbc_nmi | rfl))
        | rfl))

theorem op_FE_pips (step : Nat) (c : w65816_t) (pins : Nat) (r : w65816_t × Nat)
    (h : op_FE step c pins = some r) : r.1.irq_pip = c.irq_pip ∧ r.1.nmi_pip = c.nmi_pip := by
  unfold op_FE at h
  split at h <;> first
    | exact Option.noConfusion h
    | (cases h; constructor <;> (first
        | (dsimp only [_NZ] <;>
           repeat' (first | apply ite_irq_of | apply ite_nmi_of | apply ite_fst_irq_of | apply ite_fst_nmi_of | rfl))
        | rfl))

theorem op_FF_pips (step : Nat) (c : w65816_t) (pins : Nat) (r : w65816_t × Nat)
    (h : op_FF step c pins = some r) : r.1.irq_pip = c.irq_pip ∧ r.1.nmi_pip = c.nmi_pip := by
  unfold op_FF at h
  split at h <;> first
    | exact Option.noConfusion h
    | (cases h; constructor <;> (first
        | (dsimp only [] <;>
           repeat' (first | apply ite_irq_of | apply ite_nmi_of | apply ite_fst_irq_of | apply ite_fst_nmi_of | apply sbc_irq | apply sbc_nmi | rfl))
        | rfl))

theorem decode_0_pips (lo step : Nat) (c : w65816_t) (pins : Nat) (r : w65816_t × Nat)
    (h : decode_0 lo step c pins = some r) :
    r.1.irq_pip = c.irq_pip ∧ r.1.nmi_pip = c.nmi_pip := by
  unfold decode_0 at h
  split at h
  · exact op_00_pips _ _ _ _ h
  · exact op_01_pips _ _ _ _ h
  · exact op_02_pips _ _ _ _ h
  · exact op_03_pips _ _ _ _ h
  · exact op_04_pips _ _ _ _ h
  · exact op_05_pips _ _ _ _ h
  · exact op_06_pips _ _ _ _ h
  · exact op_07_pips _ _ _ _ h
  · exact op_08_pips _ _ _ _ h
  · exact op_09_pips _ _ _ _ h
  · exact op_0A_pips _ _ _ _ h
  · exact op_0B_pips _ _ _ _ h
  · exact op_0C_pips _ _ _ _ h
  · exact op_0D_pips _ _ _ _ h
  · exact op_0E_pips _ _ _ _ h
  · exact op_0F_pips _ _ _ _ h
  · exact Option.noConfusion h

theorem decode_1_pips (lo step : Nat) (c : w65816_t) (pins : Nat) (r : w65816_t × Nat)
    (h : decode_1 lo step c pins = some r) :
    (lo = 0 ∧ step = 2 ∧ (c.AD &&& 0xFF00) = (c.PC &&& 0xFF00) →
      r.1.irq_pip = c.irq_pip >>> 1 ∧ r.1.nmi_pip = c.nmi_pip >>> 1) ∧
    (¬ (lo = 0 ∧ step = 2 ∧ (c.AD &&& 0xFF00) = (c.PC &&& 0xFF00)) →
      r.1.irq_pip = c.irq_pip ∧ r.1.nmi_pip = c.nmi_pip) := by
  unfold decode_1 at h
  split at h
  · obtain ⟨h1, h2⟩ := op_10_pips _ _ _ _ h
    exact ⟨fun hh => h1 hh.2, fun hh => h2 (fun g => hh ⟨rfl, g⟩)⟩
  · exact ⟨fun hh => absurd hh.1 (by decide), fun _ => op_11_pips _ _ _ _ h⟩
  · exact ⟨fun hh => absurd hh.1 (by decide), fun _ => op_12_pips _ _ _ _ h⟩
  · exact ⟨fun hh => absurd hh.1 (by decide), fun _ => op_13_pips _ _ _ _ h⟩
  · exact ⟨fun hh => absurd hh.1 (by decide), fun _ => op_14_pips _ _ _ _ h⟩
  · exact ⟨fun hh => absurd hh.1 (by decide), fun _ => op_15_pips _ _ _ _ h⟩
  · exact ⟨fun hh => absurd hh.1 (by decide), fun _ => op_16_pips _ _ _ _ h⟩
  · exact ⟨fun hh => absurd hh.1 (by decide), fun _ => op_17_pips _ _ _ _ h⟩
  · exact ⟨fun hh => absurd hh.1 (by decide), fun _ => op_18_pips _ _ _ _ h⟩
  · exact ⟨fun hh => absurd hh.1 (by decide), fun _ => op_19_pips _ _ _ _ h⟩
  · exact ⟨fun hh => absurd hh.1 (by decide), fun _ => op_1A_pips _ _ _ _ h⟩
  · exact ⟨fun hh => absurd hh.1 (by decide), fun _ => op_1B_pips _ _ _ _ h⟩
  · exact ⟨fun hh => absurd hh.1 (by decide), fun _ => op_1C_pips _ _ _ _ h⟩
  · exact ⟨fun hh => absurd hh.1 (by decide), fun _ => op_1D_pips _ _ _ _ h⟩
  · exact ⟨fun hh => absurd hh.1 (by decide), fun _ => op_1E_pips _ _ _ _ h⟩
  · exact ⟨fun hh => absurd hh.1 (by decide), fun _ => op_1F_pips _ _ _ _ h⟩
  · exact Option.noConfusion h

theorem decode_2_pips (lo step : Nat) (c : w65816_t) (pins : Nat) (r : w65816_t × Nat)
    (h : decode_2 lo step c pins = some r) :
    r.1.irq_pip = c.irq_pip ∧ r.1.nmi_pip = c.nmi_pip := by
  unfold decode_2 at h
  split at h
  · exact op_20_pips _ _ _ _ h
  · exact op_21_pips _ _ _ _ h
  · exact op_22_pips _ _ _ _ h
  · exact op_23_pips _ _ _ _ h
  · exact op_24_pips _ _ _ _ h
  · exact op_25_pips _ _ _ _ h
  · exact op_26_pips _ _ _ _ h
  · exact op_27_pips _ _ _ _ h
  · exact op_28_pips _ _ _ _ h
  · exact op_29_pips _ _ _ _ h
  · exact op_2A_pips _ _ _ _ h
  · exact op_2B_pips _ _ _ _ h
  · exact op_2C_pips _ _ _ _ h
  · exact op_2D_pips _ _ _ _ h
  · exact op_2E_pips _ _ _ _ h
  · exact op_2F_pips _ _ _ _ h
  · exact Option.noConfusion h

theorem decode_3_pips (lo step : Nat) (c : w65816_t) (pins : Nat) (r : w65816_t × Nat)
    (h : decode_3 lo step c pins = some r) :
    (lo = 0 ∧ step = 2 ∧ (c.AD &&& 0xFF00) = (c.PC &&& 0xFF00) →
      r.1.irq_pip = c.irq_pip >>> 1 ∧ r.1.nmi_pip = c.nmi_pip >>> 1) ∧
    (¬ (lo = 0 ∧ step = 2 ∧ (c.AD &&& 0xFF00) = (c.PC &&& 0xFF00)) →
      r.1.irq_pip = c.irq_pip ∧ r.1.nmi_pip = c.nmi_pip) := by
  unfold decode_3 at h
  split at h
  · obtain ⟨h1, h2⟩ := op_30_pips _ _ _ _ h
    exact ⟨fun hh => h1 hh.2, fun hh => h2 (fun g => hh ⟨rfl, g⟩)⟩
  · exact ⟨fun hh => absurd hh.1 (by decide), fun _ => op_31_pips _ _ _ _ h⟩
  · exact ⟨fun hh => absurd hh.1 (by decide), fun _ => op_32_pips _ _ _ _ h⟩
  · exact ⟨fun hh => absurd hh.1 (by decide), fun _ => op_33_pips _ _ _ _ h⟩
  · exact ⟨fun hh => absurd hh.1 (by decide), fun _ => op_34_pips _ _ _ _ h⟩
  · exact ⟨fun hh => absurd hh.1 (by decide), fun _ => op_35_pips _ _ _ _ h⟩
  · exact ⟨fun hh => absurd hh.1 (by decide), fun _ => op_36_pips _ _ _ _ h⟩
  · exact ⟨fun hh => absurd hh.1 (by decide), fun _ => op_37_pips _ _ _ _ h⟩
  · exact ⟨fun hh => absurd hh.1 (by decide), fun _ => op_38_pips _ _ _ _ h⟩
  · exact ⟨fun hh => absurd hh.1 (by decide), fun _ => op_39_pips _ _ _ _ h⟩
  · exact ⟨fun hh => absurd hh.1 (by decide), fun _ => op_3A_pips _ _ _ _ h⟩
  · exact ⟨fun hh => absurd hh.1 (by decide), fun _ => op_3B_pips _ _ _ _ h⟩
  · exact ⟨fun hh => absurd hh.1 (by decide), fun _ => op_3C_pips _ _ _ _ h⟩
  · exact ⟨fun hh => absurd hh.1 (by decide), fun _ => op_3D_pips _ _ _ _ h⟩
  · exact ⟨fun hh => absurd hh.1 (by decide), fun _ => op_3E_pips _ _ _ _ h⟩
  · exact ⟨fun hh => absurd hh.1 (by decide), fun _ => op_3F_pips _ _ _ _ h⟩
  · exact Option.noConfusion h

theorem decode_4_pips (lo step : Nat) (c : w65816_t) (pins : Nat) (r : w65816_t × Nat)
    (h : decode_4 lo step c pins = some r) :
    r.1.irq_pip = c.irq_pip ∧ r.1.nmi_pip = c.nmi_pip := by
  unfold decode_4 at h
  split at h
  · exact op_40_pips _ _ _ _ h
  · exact op_41_pips _ _ _ _ h
  · exact op_42_pips _ _ _ _ h
  · exact op_43_pips _ _ _ _ h
  · exact op_44_pips _ _ _ _ h
  · exact op_45_pips _ _ _ _ h
  · exact op_46_pips _ _ _ _ h
  · exact op_47_pips _ _ _ _ h
  · exact op_48_pips _ _ _ _ h
  · exact op_49_pips _ _ _ _ h
  · exact op_4A_pips _ _ _ _ h
  · exact op_4B_pips _ _ _ _ h
  · exact op_4C_pips _ _ _ _ h
  · exact op_4D_pips _ _ _ _ h
  · exact op_4E_pips _ _ _ _ h
  · exact op_4F_pips _ _ _ _ h
  · exact Option.noConfusion h

theorem decode_5_pips (lo step : Nat) (c : w65816_t) (pins : Nat) (r : w65816_t × Nat)
    (h : decode_5 lo step c pins = some r) :
    (lo = 0 ∧ step = 2 ∧ (c.AD &&& 0xFF00) = (c.PC &&& 0xFF00) →
      r.1.irq_pip = c.irq_pip >>> 1 ∧ r.1.nmi_pip = c.nmi_pip >>> 1) ∧
    (¬ (lo = 0 ∧ step = 2 ∧ (c.AD &&& 0xFF00) = (c.PC &&& 0xFF00)) →
      r.1.irq_pip = c.irq_pip ∧ r.1.nmi_pip = c.nmi_pip) := by
  unfold decode_5 at h
  split at h
  · obtain ⟨h1, h2⟩ := op_50_pips _ _ _ _ h
    exact ⟨fun hh => h1 hh.2, fun hh => h2 (fun g => hh ⟨rfl, g⟩)⟩
  · exact ⟨fun hh => absurd hh.1 (by decide), fun _ => op_51_pips _ _ _ _ h⟩
  · exact ⟨fun hh => absurd hh.1 (by decide), fun _ => op_52_pips _ _ _ _ h⟩
  · exact ⟨fun hh => absurd hh.1 (by decide), fun _ => op_53_pips _ _ _ _ h⟩
  · exact ⟨fun hh => absurd hh.1 (by decide), fun _ => op_54_pips _ _ _ _ h⟩
  · exact ⟨fun hh => absurd hh.1 (by decide), fun _ => op_55_pips _ _ _ _ h⟩
  · exact ⟨fun hh => absurd hh.1 (by decide), fun _ => op_56_pips _ _ _ _ h⟩
  · exact ⟨fun hh => absurd hh.1 (by decide), fun _ => op_57_pips _ _ _ _ h⟩
  · exact ⟨fun hh => absurd hh.1 (by decide), fun _ => op_58_pips _ _ _ _ h⟩
  · exact ⟨fun hh => absurd hh.1 (by decide), fun _ => op_59_pips _ _ _ _ h⟩
  · exact ⟨fun hh => absurd hh.1 (by decide), fun _ => op_5A_pips _ _ _ _ h⟩
  · exact ⟨fun hh => absurd hh.1 (by decide), fun _ => op_5B_pips _ _ _ _ h⟩
  · exact ⟨fun hh => absurd hh.1 (by decide), fun _ => op_5C_pips _ _ _ _ h⟩
  · exact ⟨fun hh => absurd hh.1 (by decide), fun _ => op_5D_pips _ _ _ _ h⟩
  · exact ⟨fun hh => absurd hh.1 (by decide), fun _ => op_5E_pips _ _ _ _ h⟩
  · exact ⟨fun hh => absurd hh.1 (by decide), fun _ => op_5F_pips _ _ _ _ h⟩
  · exact Option.noConfusion h

theorem decode_6_pips (lo step : Nat) (c : w65816_t) (pins : Nat) (r : w65816_t × Nat)
    (h : decode_6 lo step c pins = some r) :
    r.1.irq_pip = c.irq_pip ∧ r.1.nmi_pip = c.nmi_pip := by
  unfold decode_6 at h
  split at h
  · exact op_60_pips _ _ _ _ h
  · exact op_61_pips _ _ _ _ h
  · exact op_62_pips _ _ _ _ h
  · exact op_63_pips _ _ _ _ h
  · exact op_64_pips _ _ _ _ h
  · exact op_65_pips _ _ _ _ h
  · exact op_66_pips _ _ _ _ h
  · exact op_67_pips _ _ _ _ h
  · exact op_68_pips _ _ _ _ h
  · exact op_69_pips _ _ _ _ h
  · exact op_6A_pips _ _ _ _ h
  · exact op_6B_pips _ _ _ _ h
  · exact op_6C_pips _ _ _ _ h
  · exact op_6D_pips _ _ _ _ h
  · exact op_6E_pips _ _ _ _ h
  · exact op_6F_pips _ _ _ _ h
  · exact Option.noConfusion h

theorem decode_7_pips (lo step : Nat) (c : w65816_t) (pins : Nat) (r : w65816_t × Nat)
    (h : decode_7 lo step c pins = some r) :
    (lo = 0 ∧ step = 2 ∧ (c.AD &&& 0xFF00) = (c.PC &&& 0xFF00) →
      r.1.irq_pip = c.irq_pip >>> 1 ∧ r.1.nmi_pip = c.nmi_pip >>> 1) ∧
    (¬ (lo = 0 ∧ step = 2 ∧ (c.AD &&& 0xFF00) = (c.PC &&& 0xFF00)) →
      r.1.irq_pip = c.irq_pip ∧ r.1.nmi_pip = c.nmi_pip) := by
  unfold decode_7 at h
  split at h
  · obtain ⟨h1, h2⟩ := op_70_pips _ _ _ _ h
    exact ⟨fun hh => h1 hh.2, fun hh => h2 (fun g => hh ⟨rfl, g⟩)⟩
  · exact ⟨fun hh => absurd hh.1 (by decide), fun _ => op_71_pips _ _ _ _ h⟩
  · exact ⟨fun hh => absurd hh.1 (by decide), fun _ => op_72_pips _ _ _ _ h⟩
  · exact ⟨fun hh => absurd hh.1 (by decide), fun _ => op_73_pips _ _ _ _ h⟩
  · exact ⟨fun hh => absurd hh.1 (by decide), fun _ => op_74_pips _ _ _ _ h⟩
  · exact ⟨fun hh => absurd hh.1 (by decide), fun _ => op_75_pips _ _ _ _ h⟩
  · exact ⟨fun hh => absurd hh.1 (by decide), fun _ => op_76_pips _ _ _ _ h⟩
  · exact ⟨fun hh => absurd hh.1 (by decide), fun _ => op_77_pips _ _ _ _ h⟩
  · exact ⟨fun hh => absurd hh.1 (by decide), fun _ => op_78_pips _ _ _ _ h⟩
  · exact ⟨fun hh => absurd hh.1 (by decide), fun _ => op_79_pips _ _ _ _ h⟩
  · exact ⟨fun hh => absurd hh.1 (by decide), fun _ => op_7A_pips _ _ _ _ h⟩
  · exact ⟨fun hh => absurd hh.1 (by decide), fun _ => op_7B_pips _ _ _ _ h⟩
  · exact ⟨fun hh => absurd hh.1 (by decide), fun _ => op_7C_pips _ _ _ _ h⟩
  · exact ⟨fun hh => absurd hh.1 (by decide), fun _ => op_7D_pips _ _ _ _ h⟩
  · exact ⟨fun hh => absurd hh.1 (by decide), fun _ => op_7E_pips _ _ _ _ h⟩
  · exact ⟨fun hh => absurd hh.1 (by decide), fun _ => op_7F_pips _ _ _ _ h⟩
  · exact Option.noConfusion h

theorem decode_8_pips (lo step : Nat) (c : w65816_t) (pins : Nat) (r : w65816_t × Nat)
    (h : decode_8 lo step c pins = some r) :
    (lo = 0 ∧ step = 2 ∧ (c.AD &&& 0xFF00) = (c.PC &&& 0xFF00) →
      r.1.irq_pip = c.irq_pip >>> 1 ∧ r.1.nmi_pip = c.nmi_pip >>> 1) ∧
    (¬ (lo = 0 ∧ step = 2 ∧ (c.AD &&& 0xFF00) = (c.PC &&& 0xFF00)) →
      r.1.irq_pip = c.irq_pip ∧ r.1.nmi_pip = c.nmi_pip) := by
  unfold decode_8 at h
  split at h
  · obtain ⟨h1, h2⟩ := op_80_pips _ _ _ _ h
    exact ⟨fun hh => h1 hh.2, fun hh => h2 (fun g => hh ⟨rfl, g⟩)⟩
  · exact ⟨fun hh => absurd hh.1 (by decide), fun _ => op_81_pips _ _ _ _ h⟩
  · exact ⟨fun hh => absurd hh.1 (by decide), fun _ => op_82_pips _ _ _ _ h⟩
  · exact ⟨fun hh => absurd hh.1 (by decide), fun _ => op_83_pips _ _ _ _ h⟩
  · exact ⟨fun hh => absurd hh.1 (by decide), fun _ => op_84_pips _ _ _ _ h⟩
  · exact ⟨fun hh => absurd hh.1 (by decide), fun _ => op_85_pips _ _ _ _ h⟩
  · exact ⟨fun hh => absurd hh.1 (by decide), fun _ => op_86_pips _ _ _ _ h⟩
  · exact ⟨fun hh => absurd hh.1 (by decide), fun _ => op_87_pips _ _ _ _ h⟩
  · exact ⟨fun hh => absurd hh.1 (by decide), fun _ => op_88_pips _ _ _ _ h⟩
  · exact ⟨fun hh => absurd hh.1 (by decide), fun _ => op_89_pips _ _ _ _ h⟩
  · exact ⟨fun hh => absurd hh.1 (by decide), fun _ => op_8A_pips _ _ _ _ h⟩
  · exact ⟨fun hh => absurd hh.1 (by decide), fun _ => op_8B_pips _ _ _ _ h⟩
  · exact ⟨fun hh => absurd hh.1 (by decide), fun _ => op_8C_pips _ _ _ _ h⟩
  · exact ⟨fun hh => absurd hh.1 (by decide), fun _ => op_8D_pips _ _ _ _ h⟩
  · exact ⟨fun hh => absurd hh.1 (by decide), fun _ => op_8E_pips _ _ _ _ h⟩
  · exact ⟨fun hh => absurd hh.1 (by decide), fun _ => op_8F_pips _ _ _ _ h⟩
  · exact Option.noConfusion h

theorem decode_9_pips (lo step : Nat) (c : w65816_t) (pins : Nat) (r : w65816_t × Nat)
    (h : decode_9 lo step c pins = some r) :
    (lo = 0 ∧ step = 2 ∧ (c.AD &&& 0xFF00) = (c.PC &&& 0xFF00) →
      r.1.irq_pip = c.irq_pip >>> 1 ∧ r.1.nmi_pip = c.nmi_pip >>> 1) ∧
    (¬ (lo = 0 ∧ step = 2 ∧ (c.AD &&& 0xFF00) = (c.PC &&& 0xFF00)) →
      r.1.irq_pip = c.irq_pip ∧ r.1.nmi_pip = c.nmi_pip) := by
  unfold decode_9 at h
  split at h
  · obtain ⟨h1, h2⟩ := op_90_pips _ _ _ _ h
    exact ⟨fun hh => h1 hh.2, fun hh => h2 (fun g => hh ⟨rfl, g⟩)⟩
  · exact ⟨fun hh => absurd hh.1 (by decide), fun _ => op_91_pips _ _ _ _ h⟩
  · exact ⟨fun hh => absurd hh.1 (by decide), fun _ => op_92_pips _ _ _ _ h⟩
  · exact ⟨fun hh => absurd hh.1 (by decide), fun _ => op_93_pips _ _ _ _ h⟩
  · exact ⟨fun hh => absurd hh.1 (by decide), fun _ => op_94_pips _ _ _ _ h⟩
  · exact ⟨fun hh => absurd hh.1 (by decide), fun _ => op_95_pips _ _ _ _ h⟩
  · exact ⟨fun hh => absurd hh.1 (by decide), fun _ => op_96_pips _ _ _ _ h⟩
  · exact ⟨fun hh => absurd hh.1 (by decide), fun _ => op_97_pips _ _ _ _ h⟩
  · exact ⟨fun hh => absurd hh.1 (by decide), fun _ => op_98_pips _ _ _ _ h⟩
  · exact ⟨fun hh => absurd hh.1 (by decide), fun _ => op_99_pips _ _ _ _ h⟩
  · exact ⟨fun hh => absurd hh.1 (by decide), fun _ => op_9A_pips _ _ _ _ h⟩
  · exact ⟨fun hh => absurd hh.1 (by decide), fun _ => op_9B_pips _ _ _ _ h⟩
  · exact ⟨fun hh => absurd hh.1 (by decide), fun _ => op_9C_pips _ _ _ _ h⟩
  · exact ⟨fun hh => absurd hh.1 (by decide), fun _ => op_9D_pips _ _ _ _ h⟩
  · exact ⟨fun hh => absurd hh.1 (by decide), fun _ => op_9E_pips _ _ _ _ h⟩
  · exact ⟨fun hh => absurd hh.1 (by decide), fun _ => op_9F_pips _ _ _ _ h⟩
  · exact Option.noConfusion h

theorem decode_A_pips (lo step : Nat) (c : w65816_t) (pins : Nat) (r : w65816_t × Nat)
    (h : decode_A lo step c pins = some r) :
    r.1.irq_pip = c.irq_pip ∧ r.1.nmi_pip = c.nmi_pip := by
  unfold decode_A at h
  split at h
  · exact op_A0_pips _ _ _ _ h
  · exact op_A1_pips _ _ _ _ h
  · exact op_A2_pips _ _ _ _ h
  · exact op_A3_pips _ _ _ _ h
  · exact op_A4_pips _ _ _ _ h
  · exact op_A5_pips _ _ _ _ h
  · exact op_A6_pips _ _ _ _ h
  · exact op_A7_pips _ _ _ _ h
  · exact op_A8_pips _ _ _ _ h
  · exact op_A9_pips _ _ _ _ h
  · exact op_AA_pips _ _ _ _ h
  · exact op_AB_pips _ _ _ _ h
  · exact op_AC_pips _ _ _ _ h
  · exact op_AD_pips _ _ _ _ h
  · exact op_AE_pips _ _ _ _ h
  · exact op_AF_pips _ _ _ _ h
  · exact Option.noConfusion h

theorem decode_B_pips (lo step : Nat) (c : w65816_t) (pins : Nat) (r : w65816_t × Nat)
    (h : decode_B lo step c pins = some r) :
    (lo = 0 ∧ step = 2 ∧ (c.AD &&& 0xFF00) = (c.PC &&& 0xFF00) →
      r.1.irq_pip = c.irq_pip >>> 1 ∧ r.1.nmi_pip = c.nmi_pip >>> 1) ∧
    (¬ (lo = 0 ∧ step = 2 ∧ (c.AD &&& 0xFF00) = (c.PC &&& 0xFF00)) →
      r.1.irq_pip = c.irq_pip ∧ r.1.nmi_pip = c.nmi_pip) := by
  unfold decode_B at h
  split at h
  · obtain ⟨h1, h2⟩ := op_B0_pips _ _ _ _ h
    exact ⟨fun hh => h1 hh.2, fun hh => h2 (fun g => hh ⟨rfl, g⟩)⟩
  · exact ⟨fun hh => absurd hh.1 (by decide), fun _ => op_B1_pips _ _ _ _ h⟩
  · exact ⟨fun hh => absurd hh.1 (by decide), fun _ => op_B2_pips _ _ _ _ h⟩
  · exact ⟨fun hh => absurd hh.1 (by decide), fun _ => op_B3_pips _ _ _ _ h⟩
  · exact ⟨fun hh => absurd hh.1 (by decide), fun _ => op_B4_pips _ _ _ _ h⟩
  · exact ⟨fun hh => absurd hh.1 (by decide), fun _ => op_B5_pips _ _ _ _ h⟩
  · exact ⟨fun hh => absurd hh.1 (by decide), fun _ => op_B6_pips _ _ _ _ h⟩
  · exact ⟨fun hh => absurd hh.1 (by decide), fun _ => op_B7_pips _ _ _ _ h⟩
  · exact ⟨fun hh => absurd hh.1 (by decide), fun _ => op_B8_pips _ _ _ _ h⟩
  · exact ⟨fun hh => absurd hh.1 (by decide), fun _ => op_B9_pips _ _ _ _ h⟩
  · exact ⟨fun hh => absurd hh.1 (by decide), fun _ => op_BA_pips _ _ _ _ h⟩
  · exact ⟨fun hh => absurd hh.1 (by decide), fun _ => op_BB_pips _ _ _ _ h⟩
  · exact ⟨fun hh => absurd hh.1 (by decide), fun _ => op_BC_pips _ _ _ _ h⟩
  · exact ⟨fun hh => absurd hh.1 (by decide), fun _ => op_BD_pips _ _ _ _ h⟩
  · exact ⟨fun hh => absurd hh.1 (by decide), fun _ => op_BE_pips _ _ _ _ h⟩
  · exact ⟨fun hh => absurd hh.1 (by decide), fun _ => op_BF_pips _ _ _ _ h⟩
  · exact Option.noConfusion h

theorem decode_C_pips (lo step : Nat) (c : w65816_t) (pins : Nat) (r : w65816_t × Nat)
    (h : decode_C lo step c pins = some r) :
    r.1.irq_pip = c.irq_pip ∧ r.1.nmi_pip = c.nmi_pip := by
  unfold decode_C at h
  split at h
  · exact op_C0_pips _ _ _ _ h
  · exact op_C1_pips _ _ _ _ h
  · exact op_C2_pips _ _ _ _ h
  · exact op_C3_pips _ _ _ _ h
  · exact op_C4_pips _ _ _ _ h
  · exact op_C5_pips _ _ _ _ h
  · exact op_C6_pips _ _ _ _ h
  · exact op_C7_pips _ _ _ _ h
  · exact op_C8_pips _ _ _ _ h
  · exact op_C9_pips _ _ _ _ h
  · exact op_CA_pips _ _ _ _ h
  · exact op_CB_pips _ _ _ _ h
  · exact op_CC_pips _ _ _ _ h
  · exact op_CD_pips _ _ _ _ h
  · exact op_CE_pips _ _ _ _ h
  · exact op_CF_pips _ _ _ _ h
  · exact Option.noConfusion h

theorem decode_D_pips (lo step : Nat) (c : w65816_t) (pins : Nat) (r : w65816_t × Nat)
    (h : decode_D lo step c pins = some r) :
    (lo = 0 ∧ step = 2 ∧ (c.AD &&& 0xFF00) = (c.PC &&& 0xFF00) →
      r.1.irq_pip = c.irq_pip >>> 1 ∧ r.1.nmi_pip = c.nmi_pip >>> 1) ∧
    (¬ (lo = 0 ∧ step = 2 ∧ (c.AD &&& 0xFF00) = (c.PC &&& 0xFF00)) →
      r.1.irq_pip = c.irq_pip ∧ r.1.nmi_pip = c.nmi_pip) := by
  unfold decode_D at h
  split at h
  · obtain ⟨h1, h2⟩ := op_D0_pips _ _ _ _ h
    exact ⟨fun hh => h1 hh.2, fun hh => h2 (fun g => hh ⟨rfl, g⟩)⟩
  · exact ⟨fun hh => absurd hh.1 (by decide), fun _ => op_D1_pips _ _ _ _ h⟩
  · exact ⟨fun hh => absurd hh.1 (by decide), fun _ => op_D2_pips _ _ _ _ h⟩
  · exact ⟨fun hh => absurd hh.1 (by decide), fun _ => op_D3_pips _ _ _ _ h⟩
  · exact ⟨fun hh => absurd hh.1 (by decide), fun _ => op_D4_pips _ _ _ _ h⟩
  · exact ⟨fun hh => absurd hh.1 (by decide), fun _ => op_D5_pips _ _ _ _ h⟩
  · exact ⟨fun hh => absurd hh.1 (by decide), fun _ => op_D6_pips _ _ _ _ h⟩
  · exact ⟨fun hh => absurd hh.1 (by decide), fun _ => op_D7_pips _ _ _ _ h⟩
  · exact ⟨fun hh => absurd hh.1 (by decide), fun _ => op_D8_pips _ _ _ _ h⟩
  · exact ⟨fun hh => absurd hh.1 (by decide), fun _ => op_D9_pips _ _ _ _ h⟩
  · exact ⟨fun hh => absurd hh.1 (by decide), fun _ => op_DA_pips _ _ _ _ h⟩
  · exact ⟨fun hh => absurd hh.1 (by decide), fun _ => op_DB_pips _ _ _ _ h⟩
  · exact ⟨fun hh => absurd hh.1 (by decide), fun _ => op_DC_pips _ _ _ _ h⟩
  · exact ⟨fun hh => absurd hh.1 (by decide), fun _ => op_DD_pips _ _ _ _ h⟩
  · exact ⟨fun hh => absurd hh.1 (by decide), fun _ => op_DE_pips _ _ _ _ h⟩
  · exact ⟨fun hh => absurd hh.1 (by decide), fun _ => op_DF_pips _ _ _ _ h⟩
  · exact Option.noConfusion h

theorem decode_E_pips (lo step : Nat) (c : w65816_t) (pins : Nat) (r : w65816_t × Nat)
    (h : decode_E lo step c pins = some r) :
    r.1.irq_pip = c.irq_pip ∧ r.1.nmi_pip = c.nmi_pip := by
  unfold decode_E at h
  split at h
  · exact op_E0_pips _ _ _ _ h
  · exact op_E1_pips _ _ _ _ h
  · exact op_E2_pips _ _ _ _ h
  · exact op_E3_pips _ _ _ _ h
  · exact op_E4_pips _ _ _ _ h
  · exact op_E5_pips _ _ _ _ h
  · exact op_E6_pips _ _ _ _ h
  · exact op_E7_pips _ _ _ _ h
  · exact op_E8_pips _ _ _ _ h
  · exact op_E9_pips _ _ _ _ h
  · exact op_EA_pips _ _ _ _ h
  · exact op_EB_pips _ _ _ _ h
  · exact op_EC_pips _ _ _ _ h
  · exact op_ED_pips _ _ _ _ h
  · exact op_EE_pips _ _ _ _ h
  · exact op_EF_pips _ _ _ _ h
  · exact Option.noConfusion h

theorem decode_F_pips (lo step : Nat) (c : w65816_t) (pins : Nat) (r : w65816_t × Nat)
    (h : decode_F lo step c pins = some r) :
    (lo = 0 ∧ step = 2 ∧ (c.AD &&& 0xFF00) = (c.PC &&& 0xFF00) →
      r.1.irq_pip = c.irq_pip >>> 1 ∧ r.1.nmi_pip = c.nmi_pip >>> 1) ∧
    (¬ (lo = 0 ∧ step = 2 ∧ (c.AD &&& 0xFF00) = (c.PC &&& 0xFF00)) →
      r.1.irq_pip = c.irq_pip ∧ r.1.nmi_pip = c.nmi_pip) := by
  unfold decode_F at h
  split at h
  · obtain ⟨h1, h2⟩ := op_F0_pips _ _ _ _ h
    exact ⟨fun hh => h1 hh.2, fun hh => h2 (fun g => hh ⟨rfl, g⟩)⟩
  · exact ⟨fun hh => absurd hh.1 (by decide), fun _ => op_F1_pips _ _ _ _ h⟩
  · exact ⟨fun hh => absurd hh.1 (by decide), fun _ => op_F2_pips _ _ _ _ h⟩
  · exact ⟨fun hh => absurd hh.1 (by decide), fun _ => op_F3_pips _ _ _ _ h⟩
  · exact ⟨fun hh => absurd hh.1 (by decide), fun _ => op_F4_pips _ _ _ _ h⟩
  · exact ⟨fun hh => absurd hh.1 (by decide), fun _ => op_F5_pips _ _ _ _ h⟩
  · exact ⟨fun hh => absurd hh.1 (by decide), fun _ => op_F6_pips _ _ _ _ h⟩
  · exact ⟨fun hh => absurd hh.1 (by decide), fun _ => op_F7_pips _ _ _ _ h⟩
  · exact ⟨fun hh => absurd hh.1 (by decide), fun _ => op_F8_pips _ _ _ _ h⟩
  · exact ⟨fun hh => absurd hh.1 (by decide), fun _ => op_F9_pips _ _ _ _ h⟩
  · exact ⟨fun hh => absurd hh.1 (by decide), fun _ => op_FA_pips _ _ _ _ h⟩
  · exact ⟨fun hh => absurd hh.1 (by decide), fun _ => op_FB_pips _ _ _ _ h⟩
  · exact ⟨fun hh => absurd hh.1 (by decide), fun _ => op_FC_pips _ _ _ _ h⟩
  · exact ⟨fun hh => absurd hh.1 (by decide), fun _ => op_FD_pips _ _ _ _ h⟩
  · exact ⟨fun hh => absurd hh.1 (by decide), fun _ => op_FE_pips _ _ _ _ h⟩
  · exact ⟨fun hh => absurd hh.1 (by decide), fun _ => op_FF_pips _ _ _ _ h⟩
  · exact Option.noConfusion h

theorem plain_arm (ir : Nat) (c : w65816_t) (r : w65816_t × Nat) {K : Nat} (hK : ir / 128 = K)
    (hn : (K == 0x1 || K == 0x3 || K == 0x5 || K == 0x7 || K == 0x8 || K == 0x9 || K == 0xB ||
      K == 0xD || K == 0xF) = false)
    (h : r.1.irq_pip = c.irq_pip ∧ r.1.nmi_pip = c.nmi_pip) :
    (branch_delay ir c = true →
      r.1.irq_pip = c.irq_pip >>> 1 ∧ r.1.nmi_pip = c.nmi_pip >>> 1) ∧
    (branch_delay ir c = false → r.1.irq_pip = c.irq_pip ∧ r.1.nmi_pip = c.nmi_pip) := by
  have hb : branch_delay ir c = false := by
    unfold branch_delay
    rw [hK, hn]
    simp
  rw [hb]
  exact ⟨fun hh => Bool.noConfusion hh, fun _ => h⟩

theorem branch_arm (ir : Nat) (c : w65816_t) (r : w65816_t × Nat) {K : Nat} (hK : ir / 128 = K)
    (hn : (K == 0x1 || K == 0x3 || K == 0x5 || K == 0x7 || K == 0x8 || K == 0x9 || K == 0xB ||
      K == 0xD || K == 0xF) = true)
    (h : (ir / 8 % 16 = 0 ∧ ir % 8 = 2 ∧ (c.AD &&& 0xFF00) = (c.PC &&& 0xFF00) →
        r.1.irq_pip = c.irq_pip >>> 1 ∧ r.1.nmi_pip = c.nmi_pip >>> 1) ∧
      (¬ (ir / 8 % 16 = 0 ∧ ir % 8 = 2 ∧ (c.AD &&& 0xFF00) = (c.PC &&& 0xFF00)) →
        r.1.irq_pip = c.irq_pip ∧ r.1.nmi_pip = c.nmi_pip)) :
    (branch_delay ir c = true →
      r.1.irq_pip = c.irq_pip >>> 1 ∧ r.1.nmi_pip = c.nmi_pip >>> 1) ∧
    (branch_delay ir c = false → r.1.irq_pip = c.irq_pip ∧ r.1.nmi_pip = c.nmi_pip) := by
  have hb : branch_delay ir c = true ↔
      (ir / 8 % 16 = 0 ∧ ir % 8 = 2 ∧ (c.AD &&& 0xFF00) = (c.PC &&& 0xFF00)) := by
    unfold branch_delay
    rw [hK, hn]
    simp only [Bool.and_true, Bool.and_eq_true, beq_iff_eq]
    tauto
  constructor
  · intro hh
    exact h.1 (hb.1 hh)
  · intro hh
    exact h.2 (fun g => by rw [hb.2 g] at hh; exact Bool.noConfusion hh)

/-- The decoder writes `irq_pip` and `nmi_pip` in the branch-delay cases only, where it shifts
both right by one bit. -/
theorem decode_pips (ir : Nat) (c : w65816_t) (pins : Nat) (r : w65816_t × Nat)
    (h : w65816_decode ir c pins = some r) :
    (branch_delay ir c = true →
      r.1.irq_pip = c.irq_pip >>> 1 ∧ r.1.nmi_pip = c.nmi_pip >>> 1) ∧
    (branch_delay ir c = false → r.1.irq_pip = c.irq_pip ∧ r.1.nmi_pip = c.nmi_pip) := by
  unfold w65816_decode at h
  generalize hK : ir / 128 = K at h
  split at h
  · exact plain_arm ir c r hK (by decide) (decode_0_pips _ _ _ _ _ h)
  · exact branch_arm ir c r hK (by decide) (decode_1_pips _ _ _ _ _ h)
  · exact plain_arm ir c r hK (by decide) (decode_2_pips _ _ _ _ _ h)
  · exact branch_arm ir c r hK (by decide) (decode_3_pips _ _ _ _ _ h)
  · exact plain_arm ir c r hK (by decide) (decode_4_pips _ _ _ _ _ h)
  · exact branch_arm ir c r hK (by decide) (decode_5_pips _ _ _ _ _ h)
  · exact plain_arm ir c r hK (by decide) (decode_6_pips _ _ _ _ _ h)
  · exact branch_arm ir c r hK (by decide) (decode_7_pips _ _ _ _ _ h)
  · exact branch_arm ir c r hK (by decide) (decode_8_pips _ _ _ _ _ h)
  · exact branch_arm ir c r hK (by decide) (decode_9_pips _ _ _ _ _ h)
  · exact plain_arm ir c r hK (by decide) (decode_A_pips _ _ _ _ _ h)
  · exact branch_arm ir c r hK (by decide) (decode_B_pips _ _ _ _ _ h)
  · exact plain_arm ir c r hK (by decide) (decode_C_pips _ _ _ _ _ h)
  · exact branch_arm ir c r hK (by decide) (decode_D_pips _ _ _ _ _ h)
  · exact plain_arm ir c r hK (by decide) (decode_E_pips _ _ _ _ _ h)
  · exact branch_arm ir c r hK (by decide) (decode_F_pips _ _ _ _ _ h)
  · exact Option.noConfusion h

/-! ## The interrupt pipelines across one tick -/

theorem tick_sync_pips (c : w65816_t) (pins : Nat) :
    (tick_sync c pins).1.irq_pip = c.irq_pip &&& 0x3FF ∧
    (tick_sync c pins).1.nmi_pip = c.nmi_pip &&& 0x3FF := by
  simp only [tick_sync, tick_sync_latch, tick_sync_force]
  split_ifs <;> exact ⟨rfl, rfl⟩

theorem tick_sync_step0 (c : w65816_t) (pins : Nat) (x : w65816_t) :
    branch_delay (tick_sync c pins).1.IR x = false := by
  have h8 : (tick_sync c pins).1.IR % 8 = 0 := by
    rcases Nat.eq_zero_or_pos (tick_sync c pins).1.brk_flags with h | h
    · rw [((tick_sync_cases c pins).2 h).1, Nat.shiftLeft_eq]
      omega
    · rw [((tick_sync_cases c pins).1 (Nat.pos_iff_ne_zero.1 h)).1]
  unfold branch_delay
  rw [h8]
  rfl

theorem branch_delay_IR (ir : Nat) (c : w65816_t) (k : Nat) :
    branch_delay ir { c with IR := k } = branch_delay ir c := rfl

theorem branch_delay_detect (ir : Nat) (c : w65816_t) (pins : Nat) :
    branch_delay ir (tick_detect c pins) = branch_delay ir c := by
  rw [tick_detect_frame]
  rfl

/-- C4 (counterexample): a tick stalled by RW and RDY, on the state of `w65816_init` with
`nmi_pip = 1`, returns with `nmi_pip` still 1, not shifted to 2. -/
theorem stalled_tick_keeps_nmi_pip :
    ∃ r, w65816_tick { (w65816_init false).1 with nmi_pip := 1 } (W65816_RW ||| W65816_RDY) = some r ∧
      r.1.nmi_pip = 1 ∧ r.1.nmi_pip ≠ (1 <<< 1) % 65536 := by
  refine ⟨_, tick_stalled _ _ (by decide), ?_, ?_⟩
  · decide
  · decide

/-- C4 (amended): a tick stalled by RW and RDY shifts only `irq_pip` left by one bit and leaves
`nmi_pip` unshifted; a sync tick masks both pipelines with 0x3FF and shifts both left by one
bit; any other tick shifts both left by one bit, except in sub-cycle 2 of a taken branch inside
the page, where both are shifted right by one bit first; all this on the pipelines after the
interrupt detection of the tick, within 16 bits. -/
theorem pipeline_shift (c : w65816_t) (pins : Nat) (r : w65816_t × Nat)
    (h : w65816_tick c pins = some r) :
    (pins &&& (W65816_RW ||| W65816_RDY) = W65816_RW ||| W65816_RDY →
      r.1.irq_pip = ((tick_detect c pins).irq_pip <<< 1) % 65536 ∧
      r.1.nmi_pip = (tick_detect c pins).nmi_pip) ∧
    (pins &&& (W65816_RW ||| W65816_RDY) ≠ W65816_RW ||| W65816_RDY →
      (pins &&& W65816_VPA ≠ 0 ∧ pins &&& W65816_VDA ≠ 0) →
      r.1.irq_pip = (((tick_detect c pins).irq_pip &&& 0x3FF) <<< 1) % 65536 ∧
      r.1.nmi_pip = (((tick_detect c pins).nmi_pip &&& 0x3FF) <<< 1) % 65536) ∧
    (pins &&& (W65816_RW ||| W65816_RDY) ≠ W65816_RW ||| W65816_RDY →
      ¬ (pins &&& W65816_VPA ≠ 0 ∧ pins &&& W65816_VDA ≠ 0) →
      (branch_delay c.IR c = false →
        r.1.irq_pip = ((tick_detect c pins).irq_pip <<< 1) % 65536 ∧
        r.1.nmi_pip = ((tick_detect c pins).nmi_pip <<< 1) % 65536) ∧
      (branch_delay c.IR c = true →
        r.1.irq_pip = (((tick_detect c pins).irq_pip >>> 1) <<< 1) % 65536 ∧
        r.1.nmi_pip = (((tick_detect c pins).nmi_pip >>> 1) <<< 1) % 65536)) := by
  refine ⟨?_, ?_, ?_⟩
  · intro hs
    rw [tick_stalled c pins hs] at h
    cases h
    exact ⟨rfl, rfl⟩
  · intro hns hsy
    rw [tick_sync_raw c pins hsy.1 hsy.2 hns] at h
    unfold tick_decode at h
    simp only [Option.map_eq_some'] at h
    obtain ⟨a, ha, e⟩ := h
    subst e
    have hp := (decode_pips _ _ _ _ ha).2 (by rw [branch_delay_IR]; exact tick_sync_step0 _ _ _)
    have hq := tick_sync_pips (tick_detect c pins) pins
    rw [tick_finish_irq_pip, tick_finish_nmi_pip, hp.1, hp.2]
    exact ⟨congrArg (fun x => (x <<< 1) % 65536) hq.1, congrArg (fun x => (x <<< 1) % 65536) hq.2⟩
  · intro hns hsy
    obtain ⟨p1, e⟩ := tick_nosync_raw c pins hsy hns
    rw [e] at h
    unfold tick_decode at h
    simp only [Option.map_eq_some'] at h
    obtain ⟨a, ha, e⟩ := h
    subst e
    have hp := decode_pips _ _ _ _ ha
    rw [branch_delay_IR, tick_detect_IR, branch_delay_detect] at hp
    rw [tick_finish_irq_pip, tick_finish_nmi_pip]
    constructor
    · intro hb
      rw [(hp.2 hb).1, (hp.2 hb).2]
      exact ⟨rfl, rfl⟩
    · intro hb
      rw [(hp.1 hb).1, (hp.1 hb).2]
      exact ⟨rfl, rfl⟩

theorem pipeline_shift_witness :
    ∃ r, w65816_tick { (w65816_init false).1 with irq_pip := 0x200, nmi_pip := 0x100 }
        (w65816_init false).2 = some r ∧
      (w65816_init false).2 &&& (W65816_RW ||| W65816_RDY) ≠ W65816_RW ||| W65816_RDY ∧
      ((w65816_init false).2 &&& W65816_VPA ≠ 0 ∧ (w65816_init false).2 &&& W65816_VDA ≠ 0) ∧
      r.1.irq_pip = 0x400 ∧ r.1.nmi_pip = 0x200 :=
  ⟨(w65816_tick { (w65816_init false).1 with irq_pip := 0x200, nmi_pip := 0x100 }
      (w65816_init false).2).get (by decide),
    (Option.some_get _).symm, by decide, by decide,
    (pipeline_shift _ _ _ (Option.some_get _).symm).2.1 (by decide) (by decide)⟩

/-! ## Ticks with the NMI line held or raised -/

theorem detect_held (c : w65816_t) (a d bank : Nat) (rw vpa vda nmi : Bool)
    (hn : nmi = true → c.PINS.testBit 28 = true) :
    tick_detect c (ipins a d rw vpa vda nmi bank).word = c := by
  cases nmi with
  | false => exact tick_detect_quiet c _ rfl rfl
  | true =>
    rw [tick_detect_nmi c _ rfl rfl, if_pos (hn rfl)]

theorem detect_edge (c : w65816_t) (a d bank : Nat) (rw vpa vda : Bool)
    (hn : c.PINS.testBit 28 = false) :
    tick_detect c (ipins a d rw vpa vda true bank).word =
      { c with nmi_pip := (c.nmi_pip ||| 0x100) % 65536 } := by
  rw [tick_detect_nmi c _ rfl rfl, if_neg (by rw [hn]; exact Bool.noConfusion)]

theorem tick_ipins (c : w65816_t) (a d bank : Nat) (rw vpa vda nmi : Bool)
    (hs : (vpa && vda) = false) :
    w65816_tick c (ipins a d rw vpa vda nmi bank).word =
      (w65816_decode (tick_detect c (ipins a d rw vpa vda nmi bank).word).IR
        { tick_detect c (ipins a d rw vpa vda nmi bank).word with
          IR := ((tick_detect c (ipins a d rw vpa vda nmi bank).word).IR + 1) % 65536 }
        (ipins a d true false false nmi bank).word).map (fun r => tick_finish r.1 r.2) := by
  rw [tick_plain c _ rfl hs, tick_decode_word]
  rfl

theorem tick_sync_ipins (c : w65816_t) (a d bank : Nat) (rw nmi : Bool)
    (hn : nmi = true → c.PINS.testBit 28 = true) :
    w65816_tick c (ipins a d rw true true nmi bank).word =
      if sync_flags c false ≠ 0 then
        (w65816_decode 0
          { c with IR := 1, brk_flags := sync_flags c false, irq_pip := c.irq_pip &&& 0x3FF,
                   nmi_pip := c.nmi_pip &&& 0x3FF, P := (c.P &&& NOT32 W65816_BF) % 256 }
          (ipins a d true false false nmi bank).word).map (fun r => tick_finish r.1 r.2)
      else
        (w65816_decode (((d % 256) <<< 3) % 65536)
          { c with IR := ((((d % 256) <<< 3) % 65536) + 1) % 65536, brk_flags := sync_flags c false,
                   irq_pip := c.irq_pip &&& 0x3FF, nmi_pip := c.nmi_pip &&& 0x3FF,
                   PC := (c.PC + 1) % 65536 }
          (ipins a d true false false nmi bank).word).map (fun r => tick_finish r.1 r.2) := by
  have hres : (ipins a d rw true true nmi bank).res = false := rfl
  rw [tick_at_sync c _ rfl rfl rfl, detect_held c a d bank rw true true nmi hn, tick_sync_word, hres]
  split_ifs with h
  · simp only [W65816_VPA, W65816_VDA, Nat.reduceShiftLeft, Nat.reduceOr, OFF_sync_word,
      tick_decode_word, Nat.zero_add, Nat.reduceMod]
    rfl
  · simp only [W65816_VPA, W65816_VDA, Nat.reduceShiftLeft, Nat.reduceOr, OFF_sync_word,
      tick_decode_word]
    rfl

theorem finish_nmi_line (c : w65816_t) (f : PinF) :
    (tick_finish c f.word).1.PINS.testBit 28 = f.nmi := by
  rw [tick_finish_PINS, testBit_NMI_word]

theorem and_0_400 : (0 : Nat) &&& 0x400 = 0 := by decide
theorem and_0_3FF : (0 : Nat) &&& 0x3FF = 0 := by decide
theorem and_0_FC00 : (0 : Nat) &&& 0xFC00 = 0 := by decide
theorem and_200_FC00 : (0x200 : Nat) &&& 0xFC00 = 0 := by decide
theorem and_200_3FF : (0x200 : Nat) &&& 0x3FF = 0x200 := by decide
theorem and_800_FC00 : (0x800 : Nat) &&& 0xFC00 = 0x800 := by decide
theorem and_800_3FF : (0x800 : Nat) &&& 0x3FF = 0 := by decide

/-- The sync tick of a NOP with no interrupt due: the opcode 0xEA is decoded and PC is
incremented; the NMI pipeline `n` is masked and shifted. -/
theorem nop_sync_tick (c : w65816_t) (a bank n : Nat) (rw nmi : Bool)
    (hn : nmi = true → c.PINS.testBit 28 = true) (hb : c.brk_flags = 0) (hi : c.irq_pip = 0)
    (hp : c.nmi_pip = n) (hlow : n &&& 0xFC00 = 0) :
    ∃ c1, w65816_tick c (ipins a 0xEA rw true true nmi bank).word =
        some (c1, (ipins ((c.PC + 1) % 65536) 0xEA true false false nmi bank).word) ∧
      c1.IR = 0x751 ∧ c1.PC = (c.PC + 1) % 65536 ∧ c1.brk_flags = 0 ∧ c1.irq_pip = 0 ∧
      c1.nmi_pip = ((n &&& 0x3FF) <<< 1) % 65536 ∧ c1.PINS.testBit 28 = nmi := by
  have hf : sync_flags c false = 0 := by
    simp [sync_flags, hb, hi, hp, hlow]
  rw [tick_sync_ipins c a 0xEA bank rw nmi hn, hf, if_neg (by simp)]
  have e : ((0xEA % 256) <<< 3) % 65536 = 0x750 := by decide
  rw [e, decode_nop0, nop0_word, Option.map_some', tick_finish_pair]
  refine ⟨_, rfl, tick_finish_IR _ _, tick_finish_PC _ _, tick_finish_brk _ _, ?_, ?_, ?_⟩
  · rw [tick_finish_irq_pip]
    show ((c.irq_pip &&& 0x3FF) <<< 1) % 65536 = 0
    rw [hi, and_0_3FF]
    decide
  · rw [tick_finish_nmi_pip]
    show ((c.nmi_pip &&& 0x3FF) <<< 1) % 65536 = _
    rw [hp]
  · exact finish_nmi_line _ _

/-- The second tick of a NOP: it issues the fetch of the next opcode at PC; `x` is the NMI
pipeline after the detection of this tick. -/
theorem nop_second_tick (c : w65816_t) (a d bank x : Nat) (rw nmi : Bool) (hIR : c.IR = 0x751)
    (hd : tick_detect c (ipins a d rw false false nmi bank).word = { c with nmi_pip := x })
    (hi : c.irq_pip = 0) :
    ∃ c1, w65816_tick c (ipins a d rw false false nmi bank).word =
        some (c1, (ipins c.PC d true true true nmi bank).word) ∧
      c1.IR = 0x752 ∧ c1.PC = c.PC ∧ c1.brk_flags = c.brk_flags ∧ c1.irq_pip = 0 ∧
      c1.nmi_pip = (x <<< 1) % 65536 ∧ c1.PINS.testBit 28 = nmi := by
  rw [tick_ipins c a d bank rw false false nmi rfl, hd]
  show ∃ c1, (w65816_decode c.IR _ _).map _ = _ ∧ _
  rw [hIR, decode_nop1, nop1_word, Option.map_some', tick_finish_pair]
  refine ⟨_, rfl, tick_finish_IR _ _, tick_finish_PC _ _, tick_finish_brk _ _, ?_, ?_, ?_⟩
  · rw [tick_finish_irq_pip]
    show (c.irq_pip <<< 1) % 65536 = 0
    rw [hi]
    decide
  · rw [tick_finish_nmi_pip]
  · exact finish_nmi_line _ _

/-- The sync tick at which a pending NMI is taken: brk_flags becomes NMI, sub-cycle 0 of BRK is
executed, PC is not incremented. -/
theorem nmi_sync_tick (c : w65816_t) (a d bank n : Nat) (rw nmi : Bool)
    (hn : nmi = true → c.PINS.testBit 28 = true) (hb : c.brk_flags = 0) (hi : c.irq_pip = 0)
    (hp : c.nmi_pip = n) (hhigh : n &&& 0xFC00 ≠ 0) :
    ∃ c1, w65816_tick c (ipins a d rw true true nmi bank).word =
        some (c1, (ipins c.PC d true false false nmi bank).word) ∧
      c1.IR = 1 ∧ c1.PC = c.PC ∧ c1.brk_flags = 2 ∧ c1.PINS.testBit 28 = nmi := by
  have hf : sync_flags c false = 2 := by
    have h2 : ¬ (0 = n &&& 0xFC00) := fun e => hhigh e.symm
    simp [sync_flags, hb, hi, hp, h2]
  rw [tick_sync_ipins c a d bank rw nmi hn, hf, if_pos (by decide), decode_brk 0 (by norm_num),
    brk0_word _ _ (show (2 : Nat) ≠ 0 by decide), Option.map_some', tick_finish_pair]
  exact ⟨_, rfl, tick_finish_IR _ _, tick_finish_PC _ _, tick_finish_brk _ _, finish_nmi_line _ _⟩

/-- Sub-cycle 1 of the NMI sequence: PCH is written to the stack page, PC is not incremented. -/
theorem nmi_tick1 (c : w65816_t) (a d bank : Nat) (rw vpa vda nmi : Bool)
    (hs : (vpa && vda) = false) (hn : nmi = true → c.PINS.testBit 28 = true) (hIR : c.IR = 1)
    (hb : c.brk_flags = 2) :
    ∃ c1, w65816_tick c (ipins a d rw vpa vda nmi bank).word =
        some (c1, (ipins (0x0100 ||| (c.S &&& 0xFF)) (c.PC >>> 8) false false true nmi bank).word) ∧
      c1.IR = 2 ∧ c1.PC = c.PC ∧ c1.brk_flags = 2 ∧ c1.PINS.testBit 28 = nmi := by
  rw [tick_ipins c a d bank rw vpa vda nmi hs, detect_held c a d bank rw vpa vda nmi hn, hIR,
    decode_brk 1 (by norm_num), brk1_word, Option.map_some', tick_finish_pair]
  simp only [hb, and_2_4, and_2_3, ite_true, ite_false, Nat.reduceEqDiff]
  exact ⟨_, rfl, tick_finish_IR _ _, tick_finish_PC _ _, tick_finish_brk _ _, finish_nmi_line _ _⟩

/-- Sub-cycle 2 of the NMI sequence: PCL is written to the stack page. -/
theorem nmi_tick2 (c : w65816_t) (a d bank : Nat) (rw vpa vda nmi : Bool)
    (hs : (vpa && vda) = false) (hn : nmi = true → c.PINS.testBit 28 = true) (hIR : c.IR = 2)
    (hb : c.brk_flags = 2) :
    ∃ c1, w65816_tick c (ipins a d rw vpa vda nmi bank).word =
        some (c1, (ipins (0x0100 ||| (c.S &&& 0xFF)) c.PC false false true nmi bank).word) ∧
      c1.IR = 3 ∧ c1.PC = c.PC ∧ c1.brk_flags = 2 ∧ c1.PINS.testBit 28 = nmi := by
  rw [tick_ipins c a d bank rw vpa vda nmi hs, detect_held c a d bank rw vpa vda nmi hn, hIR,
    decode_brk 2 (by norm_num), brk2_word, Option.map_some', tick_finish_pair]
  simp only [hb, and_2_4, ite_true, ite_false, Nat.reduceEqDiff]
  exact ⟨_, rfl, tick_finish_IR _ _, tick_finish_PC _ _, tick_finish_brk _ _, finish_nmi_line _ _⟩

/-- Sub-cycle 3 of the NMI sequence: P is written to the stack page, AD becomes 0xFFFA. -/
theorem nmi_tick3 (c : w65816_t) (a d bank : Nat) (rw vpa vda nmi : Bool)
    (hs : (vpa && vda) = false) (hn : nmi = true → c.PINS.testBit 28 = true) (hIR : c.IR = 3)
    (hb : c.brk_flags = 2) :
    ∃ c1, w65816_tick c (ipins a d rw vpa vda nmi bank).word =
        some (c1, (ipins (0x0100 ||| (c.S &&& 0xFF)) (c.P ||| 0x20) false false true nmi bank).word) ∧
      c1.IR = 4 ∧ c1.AD = 0xFFFA ∧ c1.PINS.testBit 28 = nmi := by
  rw [tick_ipins c a d bank rw vpa vda nmi hs, detect_held c a d bank rw vpa vda nmi hn, hIR,
    decode_brk 3 (by norm_num), brk3_word, Option.map_some', tick_finish_pair]
  simp only [hb, and_2_4, and_2_2, ne_eq, Nat.reduceEqDiff, not_false_eq_true, not_true_eq_false,
    ite_true, ite_false]
  exact ⟨_, rfl, tick_finish_IR _ _, tick_finish_AD _ _, finish_nmi_line _ _⟩

/-- Sub-cycle 4 of BRK with the NMI line at `nmi`: the low vector byte is addressed. -/
theorem vec_tick4 (c : w65816_t) (a d bank : Nat) (rw vpa vda nmi : Bool)
    (hs : (vpa && vda) = false) (hn : nmi = true → c.PINS.testBit 28 = true) (hIR : c.IR = 4) :
    ∃ c1, w65816_tick c (ipins a d rw vpa vda nmi bank).word =
        some (c1, (ipins c.AD d true false true nmi bank).word) ∧
      c1.IR = 5 ∧ c1.AD = (c.AD + 1) % 65536 ∧ c1.brk_flags = 0 ∧ c1.PINS.testBit 28 = nmi := by
  rw [tick_ipins c a d bank rw vpa vda nmi hs, detect_held c a d bank rw vpa vda nmi hn, hIR,
    decode_brk 4 (by norm_num), brk4_word, Option.map_some', tick_finish_pair]
  exact ⟨_, rfl, tick_finish_IR _ _, tick_finish_AD _ _, tick_finish_brk _ _, finish_nmi_line _ _⟩

/-- Sub-cycle 5 of BRK with the NMI line at `nmi`: the low vector byte is latched and the
high vector byte is addressed. -/
theorem vec_tick5 (c : w65816_t) (a d bank : Nat) (rw vpa vda nmi : Bool)
    (hs : (vpa && vda) = false) (hn : nmi = true → c.PINS.testBit 28 = true) (hIR : c.IR = 5) :
    ∃ c1, w65816_tick c (ipins a d rw vpa vda nmi bank).word =
        some (c1, (ipins c.AD d true false true nmi bank).word) ∧
      c1.IR = 6 ∧ c1.AD = d % 256 ∧ c1.PINS.testBit 28 = nmi := by
  rw [tick_ipins c a d bank rw vpa vda nmi hs, detect_held c a d bank rw vpa vda nmi hn, hIR,
    decode_brk 5 (by norm_num), brk5_word, Option.map_some', tick_finish_pair]
  exact ⟨_, rfl, tick_finish_IR _ _, tick_finish_AD _ _, finish_nmi_line _ _⟩

/-- Sub-cycle 6 of BRK with the NMI line at `nmi`: PC is loaded with the vector and the fetch
of the first instruction is issued. -/
theorem vec_tick6 (c : w65816_t) (a d bank : Nat) (rw vpa vda nmi : Bool)
    (hs : (vpa && vda) = false) (hn : nmi = true → c.PINS.testBit 28 = true) (hIR : c.IR = 6) :
    ∃ c1, w65816_tick c (ipins a d rw vpa vda nmi bank).word =
        some (c1, (ipins ((((d % 256) <<< 8) ||| c.AD) % 65536) d true true true nmi bank).word) ∧
      c1.IR = 7 ∧ c1.PC = (((d % 256) <<< 8) ||| c.AD) % 65536 := by
  rw [tick_ipins c a d bank rw vpa vda nmi hs, detect_held c a d bank rw vpa vda nmi hn, hIR,
    decode_brk 6 (by norm_num), brk6_word, Option.map_some', tick_finish_pair]
  exact ⟨_, rfl, tick_finish_IR _ _, tick_finish_PC _ _⟩

/-! ## The host loop on the field view with the NMI line -/

theorem host_step_iread (c : w65816_t) (p : Nat) (mem : Mem) (c1 : w65816_t) (a d bank : Nat)
    (vpa vda nmi : Bool) (h : w65816_tick c p = some (c1, (ipins a d true vpa vda nmi bank).word)) :
    host_step { cpu := c, pins := p, mem := mem } =
      some { cpu := c1,
             pins := (ipins a (mem (a % 0x10000 + bank % 0x100 * 0x10000) % 256) true vpa vda nmi bank).word,
             mem := mem } := by
  rw [host_step_read c p mem c1 _ h rfl]
  rfl

theorem host_step_iwrite (c : w65816_t) (p : Nat) (mem : Mem) (c1 : w65816_t) (a d bank : Nat)
    (vpa vda nmi : Bool) (h : w65816_tick c p = some (c1, (ipins a d false vpa vda nmi bank).word)) :
    host_step { cpu := c, pins := p, mem := mem } =
      some { cpu := c1, pins := (ipins a d false vpa vda nmi bank).word,
             mem := fun x => if x = a % 0x10000 + bank % 0x100 * 0x10000 then d % 256 else mem x } := by
  rw [host_step_write c p mem c1 _ h rfl]
  rfl

theorem raise_nmi_word (a d bank : Nat) (rw vpa vda nmi : Bool) :
    (ipins a d rw vpa vda nmi bank).word ||| W65816_NMI = (ipins a d rw vpa vda true bank).word := by
  have h := NMI_raise_word (ipins a d rw vpa vda nmi bank)
  simp only [W65816_NMI, Nat.reduceShiftLeft]
  rw [h]
  rfl

/-- A stack address of the BRK micro-program lies in page 1, away from the vectors. -/
theorem stack_addr_ne (x : Nat) (v : Nat) (hv : 0xFF00 ≤ v) :
    ¬ (v = (0x0100 ||| (x &&& 0xFF)) % 0x10000 + 0 % 0x100 * 0x10000) := by
  rw [and_FF, or_eq_add 8 _ _ (by norm_num) (by norm_num; exact Nat.mod_lt _ (by norm_num))]
  omega

theorem sync_ipins (a d bank : Nat) (rw vpa vda nmi : Bool) :
    ((ipins a d rw vpa vda nmi bank).word &&& W65816_VPA ≠ 0 ∧
      (ipins a d rw vpa vda nmi bank).word &&& W65816_VDA ≠ 0) ↔ (vpa = true ∧ vda = true) := by
  simp only [W65816_VPA, W65816_VDA, Nat.reduceShiftLeft, test_VPA_word, test_VDA_word, ipins]
  cases vpa <;> cases vda <;> simp

theorem host_raise_ipins (c : w65816_t) (mem : Mem) (a d bank : Nat) (rw vpa vda nmi : Bool) :
    host_raise W65816_NMI { cpu := c, pins := (ipins a d rw vpa vda nmi bank).word, mem := mem } =
      { cpu := c, pins := (ipins a d rw vpa vda true bank).word, mem := mem } := by
  simp only [host_raise, raise_nmi_word]

theorem host_run_zero (s : Sys) : host_run 0 s = some s := rfl

theorem write_other (m : Mem) (A D v : Nat) (h : ¬ v = A) :
    (fun x => if x = A then D else m x) v = m v := by
  show (if v = A then D else m v) = m v
  exact if_neg h

/-- The last tick of the BRK micro-program under the host loop. -/
theorem vec_tick6_host (n : Nat) (s0 : Sys) (c : w65816_t) (mem : Mem) (a d bank : Nat)
    (rw vpa vda nmi : Bool)
    (hr : host_run n s0 = some (Sys.mk c (ipins a d rw vpa vda nmi bank).word mem))
    (hs : (vpa && vda) = false) (hn : nmi = true → c.PINS.testBit 28 = true) (hIR : c.IR = 6) :
    ∃ r, host_tick n s0 = some r ∧ (r.2 &&& W65816_VPA ≠ 0 ∧ r.2 &&& W65816_VDA ≠ 0) ∧
      _GA r.2 = (((d % 256) <<< 8) ||| c.AD) % 65536 ∧
      r.1.PC = (((d % 256) <<< 8) ||| c.AD) % 65536 := by
  obtain ⟨c1, t6, -, g6⟩ := vec_tick6 c a d bank rw vpa vda nmi hs hn hIR
  refine ⟨_, (host_tick_of _ _ _ hr).trans t6, (sync_ipins _ _ _ _ _ _ _).2 ⟨rfl, rfl⟩, ?_, g6⟩
  rw [GA_word]
  show _ % 65536 % 65536 = _
  rw [Nat.mod_mod]

theorem stack_ne_FFFA (x : Nat) :
    ¬ (65530 % 65536 + 0 % 256 * 65536 = (256 ||| x &&& 255) % 65536 + 0 % 256 * 65536) :=
  stack_addr_ne x _ (by norm_num)

theorem stack_ne_FFFB (x : Nat) :
    ¬ ((65530 + 1) % 65536 % 65536 + 0 % 256 * 65536 =
      (256 ||| x &&& 255) % 65536 + 0 % 256 * 65536) :=
  stack_addr_ne x _ (by norm_num)

theorem pip_0 : (((0 : Nat) &&& 0x3FF) <<< 1) % 65536 = 0 := by decide
theorem pip_100 : ((((0 : Nat) ||| 0x100) % 65536) <<< 1) % 65536 = 0x200 := by decide
theorem pip_200 : (((0x200 : Nat) &&& 0x3FF) <<< 1) % 65536 = 0x400 := by decide
theorem pip_400 : ((0x400 : Nat) <<< 1) % 65536 = 0x800 := by decide
theorem and_800_ne : (0x800 : Nat) &&& 0xFC00 ≠ 0 := by decide

/-- C9 (amended): in a stream of NOPs under the host loop, with no interrupt pending and bank 0
on the pins, let NMI go from low to high in the pins given to the second tick of a NOP.  That
tick issues the next fetch; the first sync tick after the edge still decodes the next NOP
(brk_flags stays 0); the forced BRK starts at the second sync tick after the edge (IR = 1,
brk_flags = NMI, PC not incremented), never inside an opcode; the six ticks from there return
no sync, and the seventh tick of the sequence issues the sync fetch at
`mem[0xFFFA] | (mem[0xFFFB] << 8)`, which is also the new PC. -/
theorem nmi_mid_nop (s : Sys) (a : Nat) (rw : Bool)
    (hpins : s.pins = (ipins a 0xEA rw true true false 0).word)
    (hb : s.cpu.brk_flags = 0) (hi : s.cpu.irq_pip = 0) (hp : s.cpu.nmi_pip = 0)
    (hmem : s.mem ((s.cpu.PC + 1) % 65536) % 256 = 0xEA) :
    ∃ s1, host_step s = some s1 ∧ s1.cpu.IR = 0x751 ∧ s1.pins &&& W65816_NMI = 0 ∧
      (∃ r, host_tick 0 (host_raise W65816_NMI s1) = some r ∧ r.1.IR = 0x752 ∧
        (r.2 &&& W65816_VPA ≠ 0 ∧ r.2 &&& W65816_VDA ≠ 0)) ∧
      (∃ r, host_tick 1 (host_raise W65816_NMI s1) = some r ∧ r.1.IR = 0x751 ∧
        r.1.brk_flags = 0) ∧
      (∃ r, host_tick 2 (host_raise W65816_NMI s1) = some r ∧ r.1.IR = 0x752 ∧
        (r.2 &&& W65816_VPA ≠ 0 ∧ r.2 &&& W65816_VDA ≠ 0)) ∧
      (∃ r, host_tick 3 (host_raise W65816_NMI s1) = some r ∧ r.1.IR = 1 ∧
        r.1.brk_flags = W65816_BRK_NMI ∧ r.1.PC = (s.cpu.PC + 2) % 65536) ∧
      (∀ k, 3 ≤ k → k < 9 → ∃ r, host_tick k (host_raise W65816_NMI s1) = some r ∧
        ¬ (r.2 &&& W65816_VPA ≠ 0 ∧ r.2 &&& W65816_VDA ≠ 0)) ∧
      (∃ r, host_tick 9 (host_raise W65816_NMI s1) = some r ∧
        (r.2 &&& W65816_VPA ≠ 0 ∧ r.2 &&& W65816_VDA ≠ 0) ∧
        _GA r.2 = (s.mem 0xFFFA % 256) ||| ((s.mem 0xFFFB % 256) <<< 8) ∧
        r.1.PC = (s.mem 0xFFFA % 256) ||| ((s.mem 0xFFFB % 256) <<< 8)) := by
  obtain ⟨c, p, mem⟩ := s
  replace hpins : p = (ipins a 0xEA rw true true false 0).word := hpins
  replace hb : c.brk_flags = 0 := hb
  replace hi : c.irq_pip = 0 := hi
  replace hp : c.nmi_pip = 0 := hp
  replace hmem : mem ((c.PC + 1) % 65536) % 256 = 0xEA := hmem
  show ∃ s1, host_step (Sys.mk c p mem) = some s1 ∧ s1.cpu.IR = 0x751 ∧ s1.pins &&& W65816_NMI = 0 ∧
      (∃ r, host_tick 0 (host_raise W65816_NMI s1) = some r ∧ r.1.IR = 0x752 ∧
        (r.2 &&& W65816_VPA ≠ 0 ∧ r.2 &&& W65816_VDA ≠ 0)) ∧
      (∃ r, host_tick 1 (host_raise W65816_NMI s1) = some r ∧ r.1.IR = 0x751 ∧
        r.1.brk_flags = 0) ∧
      (∃ r, host_tick 2 (host_raise W65816_NMI s1) = some r ∧ r.1.IR = 0x752 ∧
        (r.2 &&& W65816_VPA ≠ 0 ∧ r.2 &&& W65816_VDA ≠ 0)) ∧
      (∃ r, host_tick 3 (host_raise W65816_NMI s1) = some r ∧ r.1.IR = 1 ∧
        r.1.brk_flags = W65816_BRK_NMI ∧ r.1.PC = (c.PC + 2) % 65536) ∧
      (∀ k, 3 ≤ k → k < 9 → ∃ r, host_tick k (host_raise W65816_NMI s1) = some r ∧
        ¬ (r.2 &&& W65816_VPA ≠ 0 ∧ r.2 &&& W65816_VDA ≠ 0)) ∧
      (∃ r, host_tick 9 (host_raise W65816_NMI s1) = some r ∧
        (r.2 &&& W65816_VPA ≠ 0 ∧ r.2 &&& W65816_VDA ≠ 0) ∧
        _GA r.2 = (mem 0xFFFA % 256) ||| ((mem 0xFFFB % 256) <<< 8) ∧
        r.1.PC = (mem 0xFFFA % 256) ||| ((mem 0xFFFB % 256) <<< 8))
  rw [hpins]
  -- tick A: the sync tick of the first NOP
  obtain ⟨c1, tA, fA, gA, bA, iA, nA, lA⟩ :=
    nop_sync_tick c a 0 0 rw false (fun h => Bool.noConfusion h) hb hi hp and_0_FC00
  have hA := host_step_iread _ _ mem _ _ _ _ _ _ _ tA
  rw [pip_0] at nA
  refine ⟨_, hA, fA, ?_, ?_⟩
  · exact (and_bit_eq _ 28).2 (by rw [testBit_NMI_word]; rfl)
  rw [host_raise_ipins]
  have r0 := host_run_zero (Sys.mk c1 (ipins ((c.PC + 1) % 65536)
    (mem ((c.PC + 1) % 65536 % 65536 + 0 % 256 * 65536) % 256) true false false true 0).word mem)
  -- tick B: the second tick of the first NOP sees the NMI edge
  obtain ⟨c2, tB, fB, gB, bB, iB, nB, lB⟩ :=
    nop_second_tick c1 _ _ 0 _ true true fA (detect_edge c1 _ _ 0 true false false lA) iA
  rw [nA, pip_100] at nB
  have r1 := host_run_step _ _ _ _ r0 (host_step_iread _ _ mem _ _ _ _ _ _ _ tB)
  have haddr : c1.PC % 65536 + 0 % 256 * 65536 = (c.PC + 1) % 65536 := by
    rw [gA]; omega
  rw [haddr, hmem] at r1
  -- tick C: the first sync tick after the edge decodes the next NOP
  obtain ⟨c3, tC, fC, gC, bC, iC, nC, lC⟩ :=
    nop_sync_tick c2 c1.PC 0 0x200 true true (fun _ => lB) (bB.trans bA) iB nB and_200_FC00
  rw [pip_200] at nC
  have r2 := host_run_step _ _ _ _ r1 (host_step_iread _ _ mem _ _ _ _ _ _ _ tC)
  -- tick D: the second tick of the second NOP
  obtain ⟨c4, tD, fD, gD, bD, iD, nD, lD⟩ :=
    nop_second_tick c3 _ _ 0 c3.nmi_pip true true fC
      (detect_held c3 _ _ 0 true false false true (fun _ => lC)) iC
  rw [nC, pip_400] at nD
  have r3 := host_run_step _ _ _ _ r2 (host_step_iread _ _ mem _ _ _ _ _ _ _ tD)
  -- tick E: the second sync tick after the edge starts the NMI sequence
  obtain ⟨c5, tE, fE, gE, bE, lE⟩ :=
    nmi_sync_tick c4 c3.PC (mem (c3.PC % 65536 + 0 % 256 * 65536) % 256) 0 0x800 true true
      (fun _ => lD) (bD.trans bC) iD nD and_800_ne
  have r4 := host_run_step _ _ _ _ r3 (host_step_iread _ _ mem _ _ _ _ _ _ _ tE)
  obtain ⟨c6, t1, f1, g1, b1, l1⟩ :=
    nmi_tick1 c5 _ _ 0 true false false true rfl (fun _ => lE) fE bE
  have r5 := host_run_step _ _ _ _ r4 (host_step_iwrite _ _ mem _ _ _ _ _ _ _ t1)
  obtain ⟨c7, t2, f2, g2, b2, l2⟩ :=
    nmi_tick2 c6 _ _ 0 false false true true rfl (fun _ => l1) f1 b1
  have r6 := host_run_step _ _ _ _ r5 (host_step_iwrite _ _ _ _ _ _ _ _ _ _ t2)
  obtain ⟨c8, t3, f3, g3, l3⟩ :=
    nmi_tick3 c7 _ _ 0 false false true true rfl (fun _ => l2) f2 b2
  have r7 := host_run_step _ _ _ _ r6 (host_step_iwrite _ _ _ _ _ _ _ _ _ _ t3)
  obtain ⟨c9, t4, f4, g4, b4, l4⟩ :=
    vec_tick4 c8 _ _ 0 false false true true rfl (fun _ => l3) f3
  have r8 := host_run_step _ _ _ _ r7 (host_step_iread _ _ _ _ _ _ _ _ _ _ t4)
  obtain ⟨c10, t5, f5, g5, l5⟩ :=
    vec_tick5 c9 _ _ 0 true false true true rfl (fun _ => l4) f4
  have r9 := host_run_step _ _ _ _ r8 (host_step_iread _ _ _ _ _ _ _ _ _ _ t5)
  obtain ⟨r, t6, y6, a6, p6⟩ := vec_tick6_host _ _ _ _ _ _ _ _ _ _ _ r9 rfl (fun _ => l5) f5
  rw [g5, g4, g3, if_neg (stack_ne_FFFB c7.S), if_neg (stack_ne_FFFB c6.S),
    if_neg (stack_ne_FFFB c5.S), if_neg (stack_ne_FFFA c7.S), if_neg (stack_ne_FFFA c6.S),
    if_neg (stack_ne_FFFA c5.S)] at a6 p6
  refine ⟨?_, ?_, ?_, ?_, ?_, ?_⟩
  · exact ⟨_, (host_tick_of _ _ _ r0).trans tB, fB, (sync_ipins _ _ _ _ _ _ _).2 ⟨rfl, rfl⟩⟩
  · exact ⟨_, (host_tick_of _ _ _ r1).trans tC, fC, bC⟩
  · exact ⟨_, (host_tick_of _ _ _ r2).trans tD, fD, (sync_ipins _ _ _ _ _ _ _).2 ⟨rfl, rfl⟩⟩
  · refine ⟨_, (host_tick_of _ _ _ r3).trans tE, fE, bE, ?_⟩
    rw [gE, gD, gC, gB, gA]
    omega
  · intro k h3 h9
    interval_cases k
    · exact ⟨_, (host_tick_of _ _ _ r3).trans tE, by rw [sync_ipins]; simp⟩
    · exact ⟨_, (host_tick_of _ _ _ r4).trans t1, by rw [sync_ipins]; simp⟩
    · exact ⟨_, (host_tick_of _ _ _ r5).trans t2, by rw [sync_ipins]; simp⟩
    · exact ⟨_, (host_tick_of _ _ _ r6).trans t3, by rw [sync_ipins]; simp⟩
    · exact ⟨_, (host_tick_of _ _ _ r7).trans t4, by rw [sync_ipins]; simp⟩
    · exact ⟨_, (host_tick_of _ _ _ r8).trans t5, by rw [sync_ipins]; simp⟩
  · exact ⟨r, t6, y6, a6.trans (vec_word _ _), p6.trans (vec_word _ _)⟩

/-- C9 (counterexample): from `w65816_init` with memory full of NOPs the CPU is in the middle
of the first NOP after 8 ticks; NMI is raised in the pins of the next tick, which returns the
sync fetch; the first sync tick after the edge decodes another NOP with brk_flags = 0 instead
of starting the forced BRK. -/
theorem nmi_mid_nop_first_boundary_not_taken :
    ∃ s, host_run 8 (host_init false (fun _ => 0xEA)) = some s ∧ s.cpu.IR = 0x751 ∧
      s.pins &&& W65816_NMI = 0 ∧
      (∃ r, host_tick 0 (host_raise W65816_NMI s) = some r ∧
        (r.2 &&& W65816_VPA ≠ 0 ∧ r.2 &&& W65816_VDA ≠ 0)) ∧
      ∃ r, host_tick 1 (host_raise W65816_NMI s) = some r ∧ r.1.IR = 0x751 ∧ r.1.brk_flags = 0 :=
  ⟨(host_run 8 (host_init false (fun _ => 0xEA))).get (by decide), (Option.some_get _).symm,
    by decide, by decide,
    ⟨(host_tick 0 (host_raise W65816_NMI
      ((host_run 8 (host_init false (fun _ => 0xEA))).get (by decide)))).get (by decide),
      (Option.some_get _).symm, by decide⟩,
    (host_tick 1 (host_raise W65816_NMI
      ((host_run 8 (host_init false (fun _ => 0xEA))).get (by decide)))).get (by decide),
    (Option.some_get _).symm, by decide, by decide⟩

theorem nmi_mid_nop_witness :
    (Sys.mk (w65816_init false).1 (ipins 0 0xEA true true true false 0).word (fun _ => 0xEA)).pins =
      (ipins 0 0xEA true true true false 0).word ∧
    ∃ s1, host_step (Sys.mk (w65816_init false).1 (ipins 0 0xEA true true true false 0).word
        (fun _ => 0xEA)) = some s1 ∧
      (∃ r, host_tick 1 (host_raise W65816_NMI s1) = some r ∧ r.1.IR = 0x751 ∧
        r.1.brk_flags = 0) ∧
      (∃ r, host_tick 3 (host_raise W65816_NMI s1) = some r ∧ r.1.IR = 1 ∧
        r.1.brk_flags = W65816_BRK_NMI ∧ r.1.PC = 2) ∧
      (∃ r, host_tick 9 (host_raise W65816_NMI s1) = some r ∧
        (r.2 &&& W65816_VPA ≠ 0 ∧ r.2 &&& W65816_VDA ≠ 0) ∧ _GA r.2 = 0xEAEA ∧ r.1.PC = 0xEAEA) :=
  ⟨rfl,
    match nmi_mid_nop (Sys.mk (w65816_init false).1 (ipins 0 0xEA true true true false 0).word
      (fun _ => 0xEA)) 0 true rfl (by decide) (by decide) (by decide) (by decide) with
    | ⟨s1, h1, _, _, _, hC, _, hE, _, h9⟩ => ⟨s1, h1, hC, hE, h9⟩⟩

/-- C10: an NMI edge given to the sync tick of the 8-cycle JSR (a,x) is lost.  From
`w65816_init` with reset vector 0x8000, opcode 0xFC at 0x8000 and NOPs elsewhere, the reset
ends after 7 ticks with the sync fetch of the JSR; NMI is raised in the pins of the next tick
and held.  The JSR returns its sync fetch at its eighth tick; the first and the second sync
tick after the edge both decode a NOP with brk_flags = 0, the NMI pipeline is empty, and no
tick of the first 40 sets brk_flags. -/
theorem nmi_edge_lost_in_jsr_indexed :
    ∃ s, host_run 7 (host_init false
        (fun a => if a = 0xFFFC then 0x00 else if a = 0xFFFD then 0x80 else
          if a = 0x8000 then 0xFC else 0xEA)) = some s ∧
      (s.pins &&& W65816_VPA ≠ 0 ∧ s.pins &&& W65816_VDA ≠ 0) ∧ _GA s.pins = 0x8000 ∧
      _GD s.pins = 0xFC ∧ s.pins &&& W65816_NMI = 0 ∧ s.cpu.PINS &&& W65816_NMI = 0 ∧
      (∀ k, k < 7 → ∃ r, host_tick k (host_raise W65816_NMI s) = some r ∧
        ¬ (r.2 &&& W65816_VPA ≠ 0 ∧ r.2 &&& W65816_VDA ≠ 0)) ∧
      (∃ r, host_tick 7 (host_raise W65816_NMI s) = some r ∧
        (r.2 &&& W65816_VPA ≠ 0 ∧ r.2 &&& W65816_VDA ≠ 0) ∧ r.2 &&& W65816_NMI ≠ 0) ∧
      (∃ r, host_tick 8 (host_raise W65816_NMI s) = some r ∧ r.1.IR = 0x751 ∧
        r.1.brk_flags = 0 ∧ r.1.nmi_pip = 0) ∧
      (∃ r, host_tick 9 (host_raise W65816_NMI s) = some r ∧
        (r.2 &&& W65816_VPA ≠ 0 ∧ r.2 &&& W65816_VDA ≠ 0)) ∧
      (∃ r, host_tick 10 (host_raise W65816_NMI s) = some r ∧ r.1.IR = 0x751 ∧
        r.1.brk_flags = 0 ∧ r.1.nmi_pip = 0 ∧ r.1.PINS &&& W65816_NMI ≠ 0) ∧
      ∀ k, k < 40 → ∃ r, host_tick k (host_raise W65816_NMI s) = some r ∧ r.1.brk_flags = 0 := by
  refine ⟨(host_run 7 (host_init false
        (fun a => if a = 0xFFFC then 0x00 else if a = 0xFFFD then 0x80 else
          if a = 0x8000 then 0xFC else 0xEA))).get (by decide), (Option.some_get _).symm,
    by decide, by decide, by decide, by decide, by decide, ?_, ?_, ?_, ?_, ?_, ?_⟩
  · intro k hk
    interval_cases k <;>
      exact ⟨(host_tick _ _).get (by decide), (Option.some_get _).symm, by decide⟩
  · exact ⟨(host_tick 7 _).get (by decide), (Option.some_get _).symm, by decide, by decide⟩
  · exact ⟨(host_tick 8 _).get (by decide), (Option.some_get _).symm, by decide, by decide,
      by decide⟩
  · exact ⟨(host_tick 9 _).get (by decide), (Option.some_get _).symm, by decide⟩
  · exact ⟨(host_tick 10 _).get (by decide), (Option.some_get _).symm, by decide, by decide,
      by decide, by decide⟩
  · intro k hk
    interval_cases k <;>
      exact ⟨(host_tick _ _).get (by decide), (Option.some_get _).symm, by decide⟩

/-! ## Bits of the status register -/

theorem testBit_NOT32 (m i : Nat) : (NOT32 m).testBit i = (decide (i < 32) && !m.testBit i) := by
  have h : (0xFFFFFFFF : Nat) = 2 ^ 32 - 1 := by norm_num
  have h2 : (0x100000000 : Nat) = 2 ^ 32 := by norm_num
  rw [NOT32, h, h2, Nat.testBit_xor, Nat.testBit_two_pow_sub_one, Nat.testBit_mod_two_pow]
  by_cases hi : i < 32 <;> simp [hi]

theorem testBit_mod256 (x i : Nat) : (x % 256).testBit i = (decide (i < 8) && x.testBit i) := by
  have h : (256 : Nat) = 2 ^ 8 := by norm_num
  rw [h, Nat.testBit_mod_two_pow]

theorem flag_ne (x k : Nat) : x &&& (1 <<< k) ≠ 0 ↔ x.testBit k = true := and_bit_ne x k

theorem flag_eq (x k : Nat) : x &&& (1 <<< k) = 0 ↔ x.testBit k = false := and_bit_eq x k

theorem xce_emulation (c : w65816_t) :
    (_w65816_xce c).emulation = (c.P &&& W65816_CF) % 256 := by
  simp only [_w65816_xce]
  split_ifs <;> rfl

theorem xce_P (c : w65816_t) :
    (_w65816_xce c).P =
      (if (c.P &&& W65816_CF) % 256 = 0 then
        ((if c.emulation ≠ 0 then ((c.P &&& NOT32 W65816_CF) % 256 ||| W65816_CF) % 256
          else (c.P &&& NOT32 W65816_CF) % 256) ||| (W65816_MF ||| W65816_XF)) % 256
       else (if c.emulation ≠ 0 then ((c.P &&& NOT32 W65816_CF) % 256 ||| W65816_CF) % 256
          else (c.P &&& NOT32 W65816_CF) % 256)) := by
  simp only [_w65816_xce]
  split_ifs <;> rfl

theorem carry_mod (p : Nat) : (p &&& W65816_CF) % 256 = 0 ↔ p.testBit 0 = false := by
  have h : p &&& W65816_CF = p % 2 := by
    have := and_bit p 0
    simp only [Nat.shiftLeft_zero, pow_zero, Nat.div_one, Nat.mul_one] at this
    exact this
  rw [h, Nat.testBit_to_div_mod]
  have := Nat.mod_two_eq_zero_or_one p
  rcases this with h1 | h1 <;> simp [h1]

theorem xce_carry (c : w65816_t) :
    (_w65816_xce c).P.testBit 0 = true ↔ c.emulation ≠ 0 := by
  rw [xce_P]
  simp only [carry_mod]
  simp only [W65816_CF, W65816_MF, W65816_XF]
  split_ifs with h1 h2 h2 <;>
    simp only [Nat.testBit_or, Nat.testBit_and, testBit_mod256, testBit_NOT32, h1, h2,
      Nat.reduceShiftLeft, Nat.reduceOr] <;>
    simp only [Nat.testBit_to_div_mod, Nat.reducePow, Nat.reduceDiv,
      Nat.reduceMod, Nat.reduceLT, Nat.reduceEqDiff, Bool.and_eq_true, Bool.or_eq_true,
      decide_eq_true_eq, Bool.not_eq_true', decide_eq_false_iff_not, ne_eq, not_true_eq_false,
      not_false_eq_true, iff_true, iff_false, Bool.false_eq_true, true_and, and_true,
      false_and, and_false, or_true, true_or, or_false, false_or] at h1 ⊢ <;>
    first | done | exact h2 | tauto

theorem and_CF (x : Nat) : x &&& W65816_CF = x % 2 := by
  have := and_bit x 0
  simp only [Nat.shiftLeft_zero, pow_zero, Nat.div_one, Nat.mul_one] at this
  exact this

theorem xce_carry_val (c : w65816_t) :
    (_w65816_xce c).P &&& W65816_CF = if c.emulation ≠ 0 then 1 else 0 := by
  have h := xce_carry c
  rw [Nat.testBit_to_div_mod] at h
  simp only [pow_zero, Nat.div_one, decide_eq_true_eq] at h
  rw [and_CF]
  split_ifs with he
  · exact h.2 he
  · have := Nat.mod_two_eq_zero_or_one (_w65816_xce c).P
    rcases this with h1 | h1
    · exact h1
    · exact absurd (h.1 h1) he

/-- C14: `_w65816_xce` swaps the carry flag and the emulation flag (the new E is the old
carry, the new carry is the old E), and when it leaves emulation mode (old E set, new E
clear) the M and X flags of the new P are set. -/
theorem xce_swaps_carry_and_emulation (c : w65816_t) :
    ((_w65816_xce c).emulation ≠ 0 ↔ c.P &&& W65816_CF ≠ 0) ∧
    ((_w65816_xce c).P &&& W65816_CF ≠ 0 ↔ c.emulation ≠ 0) ∧
    (c.emulation ≠ 0 → (_w65816_xce c).emulation = 0 →
      (_w65816_xce c).P &&& W65816_MF ≠ 0 ∧ (_w65816_xce c).P &&& W65816_XF ≠ 0) := by
  refine ⟨?_, ?_, ?_⟩
  · rw [xce_emulation, ne_eq, carry_mod, W65816_CF, flag_ne]
    cases c.P.testBit 0 <;> simp
  · rw [W65816_CF, flag_ne]
    exact xce_carry c
  · intro he h0
    rw [xce_emulation] at h0
    rw [xce_P, if_pos h0, if_pos he]
    simp only [W65816_CF, W65816_MF, W65816_XF, flag_ne]
    constructor <;>
      simp only [Nat.testBit_or, Nat.testBit_and, testBit_mod256, testBit_NOT32,
        Nat.reduceShiftLeft, Nat.reduceOr] <;>
      simp only [Nat.testBit_to_div_mod, Nat.reducePow, Nat.reduceDiv,
        Nat.reduceMod, Nat.reduceLT, Nat.reduceEqDiff, Bool.and_eq_true, Bool.or_eq_true,
        decide_eq_true_eq, Bool.not_eq_true', decide_eq_false_iff_not, Bool.false_eq_true,
        true_and, and_true, false_and, and_false, or_true, true_or, or_false, false_or]

/-- C15: for every CPU state whose emulation flag is 0 or 1, `_w65816_xce` applied twice
restores the emulation flag and the carry flag. -/
theorem xce_twice_restores (c : w65816_t) (he : c.emulation = 0 ∨ c.emulation = 1) :
    (_w65816_xce (_w65816_xce c)).emulation = c.emulation ∧
    (_w65816_xce (_w65816_xce c)).P &&& W65816_CF = c.P &&& W65816_CF := by
  have h2 := Nat.mod_two_eq_zero_or_one c.P
  constructor
  · rw [xce_emulation, xce_carry_val]
    rcases he with h | h <;> rw [h] <;> rfl
  · rw [xce_carry_val, xce_emulation, and_CF]
    rcases h2 with h | h <;> rw [h] <;> rfl

theorem xce_twice_restores_witness :
    ((w65816_init false).1.emulation = 0 ∨ (w65816_init false).1.emulation = 1) ∧
    (_w65816_xce (_w65816_xce (w65816_init false).1)).emulation = (w65816_init false).1.emulation ∧
    (_w65816_xce (_w65816_xce (w65816_init false).1)).P &&& W65816_CF =
      (w65816_init false).1.P &&& W65816_CF :=
  ⟨Or.inr rfl, xce_twice_restores (w65816_init false).1 (Or.inr rfl)⟩

/-! ## `_w65816_adc` -/

theorem ite_P (b : Prop) [Decidable b] (x y : w65816_t) :
    (if b then x else y).P = if b then x.P else y.P := by split_ifs <;> rfl

theorem ite_C (b : Prop) [Decidable b] (x y : w65816_t) :
    (if b then x else y).C = if b then x.C else y.C := by split_ifs <;> rfl

theorem adc_bin_P (c : w65816_t) (v : Nat) (hbin : ¬ (c.bcd_enabled ≠ 0 ∧ c.P &&& W65816_DF ≠ 0)) :
    (_w65816_adc c v).P =
      (let sum := (_A c + v % 256 + (if c.P &&& W65816_CF ≠ 0 then 1 else 0)) % 65536
       let p1 := _W65816_NZ ((c.P &&& NOT32 (W65816_VF ||| W65816_CF)) % 256) sum
       let p2 := if NOT32 (_A c ^^^ v % 256) &&& (_A c ^^^ sum) &&& 0x80 ≠ 0 then
                   (p1 ||| W65816_VF) % 256 else p1
       if sum &&& 0xFF00 ≠ 0 then (p2 ||| W65816_CF) % 256 else p2) := by
  unfold _w65816_adc
  simp only [if_neg hbin, ite_P, ite_C, ite_self, set_A, _A]

theorem adc_bin_C (c : w65816_t) (v : Nat) (hbin : ¬ (c.bcd_enabled ≠ 0 ∧ c.P &&& W65816_DF ≠ 0)) :
    (_w65816_adc c v).C =
      (c.C &&& 0xFF00) |||
        (((_A c + v % 256 + (if c.P &&& W65816_CF ≠ 0 then 1 else 0)) % 65536 &&& 0xFF) &&& 0xFF) := by
  unfold _w65816_adc
  simp only [if_neg hbin, ite_C, set_A, _A, ite_self]

theorem adc_bcd_P (c : w65816_t) (v : Nat) (hbcd : c.bcd_enabled ≠ 0 ∧ c.P &&& W65816_DF ≠ 0) :
    (_w65816_adc c v).P =
      (let val := v % 256
       let cin := if c.P &&& W65816_CF ≠ 0 then 1 else 0
       let p0 := (c.P &&& NOT32 (W65816_NF ||| W65816_VF ||| W65816_ZF ||| W65816_CF)) % 256
       let al := ((_A c &&& 0x0F) + (val &&& 0x0F) + cin) % 256
       let al := if al > 9 then (al + 6) % 256 else al
       let ah := ((_A c >>> 4) + (val >>> 4) + (if al > 0x0F then 1 else 0)) % 256
       let p1 := if 0 = (_A c + val + cin) % 256 then (p0 ||| W65816_ZF) % 256
                 else if ah &&& 0x08 ≠ 0 then (p0 ||| W65816_NF) % 256 else p0
       let p2 := if NOT32 (_A c ^^^ val) &&& (_A c ^^^ (ah <<< 4)) &&& 0x80 ≠ 0 then
                   (p1 ||| W65816_VF) % 256 else p1
       let ah := if ah > 9 then (ah + 6) % 256 else ah
       if ah > 15 then (p2 ||| W65816_CF) % 256 else p2) := by
  unfold _w65816_adc
  simp only [if_pos hbcd, ite_P, ite_C, ite_self, set_A, _A]

theorem adc_bcd_C (c : w65816_t) (v : Nat) (hbcd : c.bcd_enabled ≠ 0 ∧ c.P &&& W65816_DF ≠ 0) :
    (_w65816_adc c v).C =
      (let val := v % 256
       let cin := if c.P &&& W65816_CF ≠ 0 then 1 else 0
       let al := ((_A c &&& 0x0F) + (val &&& 0x0F) + cin) % 256
       let al := if al > 9 then (al + 6) % 256 else al
       let ah := ((_A c >>> 4) + (val >>> 4) + (if al > 0x0F then 1 else 0)) % 256
       let ah := if ah > 9 then (ah + 6) % 256 else ah
       (c.C &&& 0xFF00) ||| (((ah <<< 4) ||| (al &&& 0x0F)) &&& 0xFF)) := by
  unfold _w65816_adc
  simp only [if_pos hbcd, ite_C, set_A, _A, ite_self]

theorem testBit_FF (i : Nat) : Nat.testBit 0xFF i = decide (i < 8) := by
  have e1 : (0xFF : Nat) = 2 ^ 8 - 1 := by norm_num
  rw [e1, Nat.testBit_two_pow_sub_one]

theorem testBit_FF00 (i : Nat) : Nat.testBit 0xFF00 i = (decide (8 ≤ i) && decide (i < 16)) := by
  have e2 : (0xFF00 : Nat) = (2 ^ 8 - 1) <<< 8 := by decide
  rw [e2, Nat.testBit_shiftLeft, Nat.testBit_two_pow_sub_one]
  by_cases h1 : 8 ≤ i <;> by_cases h2 : i < 16 <;> simp [h1, h2] <;> omega

theorem lo_of_or (h y : Nat) : ((h &&& 0xFF00) ||| y) &&& 0xFF = y % 256 := by
  apply Nat.eq_of_testBit_eq
  intro i
  rw [Nat.testBit_and, Nat.testBit_or, Nat.testBit_and, testBit_FF, testBit_FF00, testBit_mod256]
  by_cases hi : i < 8
  · have : ¬ 8 ≤ i := by omega
    simp [hi, this]
  · simp [hi]

theorem A_lt (c : w65816_t) : _A c < 256 := by
  rw [_A, and_FF]; omega

theorem A_set_A (c : w65816_t) (x : Nat) : _A (set_A c x) = x % 256 := by
  simp only [_A, set_A]
  rw [lo_of_or, and_FF]
  omega

theorem flag_80 (x : Nat) : x &&& 0x80 ≠ 0 ↔ x.testBit 7 = true := flag_ne x 7

theorem adc_bin_A (c : w65816_t) (v : Nat)
    (hb : ¬ (c.bcd_enabled ≠ 0 ∧ c.P &&& W65816_DF ≠ 0)) :
    _A (_w65816_adc c v) = (_A c + v + (if c.P &&& W65816_CF ≠ 0 then 1 else 0)) % 256 := by
  have ha := A_lt c
  rw [_A, adc_bin_C c v hb, lo_of_or, and_FF, and_FF]
  split_ifs <;> omega

theorem adc_bin_P2 (c : w65816_t) (v S : Nat) (hv : v < 256)
    (hb : ¬ (c.bcd_enabled ≠ 0 ∧ c.P &&& W65816_DF ≠ 0))
    (hS : _A c + v + (if c.P &&& W65816_CF ≠ 0 then 1 else 0) = S) :
    (_w65816_adc c v).P =
      (let p1 := _W65816_NZ ((c.P &&& NOT32 (W65816_VF ||| W65816_CF)) % 256) S
       let p2 := if NOT32 (_A c ^^^ v) &&& (_A c ^^^ S) &&& 0x80 ≠ 0 then
                   (p1 ||| W65816_VF) % 256 else p1
       if S &&& 0xFF00 ≠ 0 then (p2 ||| W65816_CF) % 256 else p2) := by
  have ha := A_lt c
  have hS2 : S < 65536 := by
    rw [← hS]; split_ifs <;> omega
  rw [adc_bin_P c v hb, Nat.mod_eq_of_lt hv, hS, Nat.mod_eq_of_lt hS2]

theorem adc_bin_flags (c : w65816_t) (v S : Nat) (hv : v < 256)
    (hb : ¬ (c.bcd_enabled ≠ 0 ∧ c.P &&& W65816_DF ≠ 0))
    (hS : _A c + v + (if c.P &&& W65816_CF ≠ 0 then 1 else 0) = S) :
    ((_w65816_adc c v).P.testBit 0 = true ↔ 256 ≤ S) ∧
    ((_w65816_adc c v).P.testBit 1 = true ↔ S % 256 = 0) ∧
    ((_w65816_adc c v).P.testBit 7 = true ↔ S.testBit 7 = true) ∧
    ((_w65816_adc c v).P.testBit 6 = true ↔
      (NOT32 (_A c ^^^ v) &&& (_A c ^^^ S)).testBit 7 = true) ∧
    (_w65816_adc c v).P.testBit 2 = c.P.testBit 2 ∧
    (_w65816_adc c v).P.testBit 3 = c.P.testBit 3 ∧
    (_w65816_adc c v).P.testBit 4 = c.P.testBit 4 ∧
    (_w65816_adc c v).P.testBit 5 = c.P.testBit 5 := by
  have ha := A_lt c
  have hS2 : S < 512 := by
    rw [← hS]; split_ifs <;> omega
  rw [adc_bin_P2 c v S hv hb hS]
  have hc : (if c.P &&& W65816_CF ≠ 0 then 1 else 0) ≤ 1 := by split_ifs <;> omega
  generalize (if c.P &&& W65816_CF ≠ 0 then 1 else 0) = cin at hS hc
  clear hb
  simp only [_W65816_NZ, W65816_CF, W65816_VF, W65816_NF, W65816_ZF, flag_ne, flag_80, and_FF, and_FF00]
  refine ⟨?_, ?_, ?_, ?_, ?_, ?_, ?_, ?_⟩ <;> split_ifs with h1 h2 h3 <;>
    simp only [Nat.testBit_or, Nat.testBit_and, Nat.testBit_xor, testBit_mod256, testBit_NOT32,
      Nat.reduceShiftLeft, Nat.reduceOr] at * <;>
    simp only [Nat.testBit_to_div_mod, Nat.reducePow, Nat.reduceDiv,
      Nat.reduceMod, Nat.reduceLT, Nat.reduceEqDiff, Bool.and_eq_true, Bool.or_eq_true,
      bne_iff_ne,
      decide_eq_true_eq, Bool.not_eq_true', decide_eq_false_iff_not, ne_eq, not_true_eq_false,
      not_false_eq_true, iff_true, iff_false, true_iff, false_iff, Bool.false_eq_true, true_and,
      and_true, false_and, and_false, or_true, true_or, or_false, false_or, Bool.true_and,
      Bool.and_true, decide_True, Bool.decide_eq_true] at * <;>
    first | omega | (simp at * <;> omega)

theorem testBit_3C (i : Nat) : Nat.testBit 0x3C i = (decide (2 ≤ i) && decide (i < 6)) := by
  have e2 : (0x3C : Nat) = (2 ^ 4 - 1) <<< 2 := by decide
  rw [e2, Nat.testBit_shiftLeft, Nat.testBit_two_pow_sub_one]
  by_cases h1 : 2 ≤ i <;> by_cases h2 : i < 6 <;> simp [h1, h2] <;> omega

theorem and_3C_eq (x y : Nat) (h2 : x.testBit 2 = y.testBit 2) (h3 : x.testBit 3 = y.testBit 3)
    (h4 : x.testBit 4 = y.testBit 4) (h5 : x.testBit 5 = y.testBit 5) :
    x &&& 0x3C = y &&& 0x3C := by
  apply Nat.eq_of_testBit_eq
  intro i
  rw [Nat.testBit_and, Nat.testBit_and, testBit_3C]
  by_cases h : 2 ≤ i ∧ i < 6
  · obtain ⟨ha, hb⟩ := h
    interval_cases i
    · rw [h2]
    · rw [h3]
    · rw [h4]
    · rw [h5]
  · have : (decide (2 ≤ i) && decide (i < 6)) = false := by
      simp only [Bool.and_eq_false_imp, decide_eq_true_eq, decide_eq_false_iff_not]
      intro h1 h2
      exact h ⟨h1, h2⟩
    rw [this, Bool.and_false, Bool.and_false]

theorem or_CF_set (x : Nat) : ((x ||| W65816_CF) % 256) &&& W65816_CF ≠ 0 := by
  have h := or_bit x 0
  simp only [Nat.shiftLeft_zero, pow_zero, Nat.div_one, Nat.mul_one] at h
  rw [and_CF, W65816_CF, Nat.shiftLeft_zero, h]
  omega

/-- C19: in binary mode (BCD disabled or D clear), for every state and every operand byte `v`,
`_w65816_adc` leaves A = (A + v + c) mod 256 with c the carry-in; the carry flag is set iff
A + v + c ≥ 256, Z iff the new A is 0, N iff bit 7 of the new A is set, and V iff
`~(A^v) & (A^result) & 0x80` is nonzero, which holds iff the sum of A and v read as signed
bytes, plus c, lies outside -128..127; bits 2 to 5 of P are unchanged.  In particular the host
loop on CLC; LDA #$FF; ADC #$01 at reset vector 0x8000 reaches A = 0 with C and Z set. -/
theorem adc_binary_mode (c : w65816_t) (v : Nat) (hv : v < 256)
    (hbin : c.bcd_enabled = 0 ∨ c.P &&& W65816_DF = 0) :
    _A (_w65816_adc c v) = (_A c + v + (if c.P &&& W65816_CF ≠ 0 then 1 else 0)) % 256 ∧
    ((_w65816_adc c v).P &&& W65816_CF ≠ 0 ↔
      256 ≤ _A c + v + (if c.P &&& W65816_CF ≠ 0 then 1 else 0)) ∧
    ((_w65816_adc c v).P &&& W65816_ZF ≠ 0 ↔ _A (_w65816_adc c v) = 0) ∧
    ((_w65816_adc c v).P &&& W65816_NF ≠ 0 ↔ _A (_w65816_adc c v) &&& 0x80 ≠ 0) ∧
    ((_w65816_adc c v).P &&& W65816_VF ≠ 0 ↔
      NOT32 (_A c ^^^ v) &&& (_A c ^^^ _A (_w65816_adc c v)) &&& 0x80 ≠ 0) ∧
    ((_w65816_adc c v).P &&& W65816_VF ≠ 0 ↔
      ((if _A c < 128 then (_A c : Int) else (_A c : Int) - 256) +
        (if v < 128 then (v : Int) else (v : Int) - 256) +
        (if c.P &&& W65816_CF ≠ 0 then 1 else 0) < -128 ∨
       127 < (if _A c < 128 then (_A c : Int) else (_A c : Int) - 256) +
        (if v < 128 then (v : Int) else (v : Int) - 256) +
        (if c.P &&& W65816_CF ≠ 0 then 1 else 0))) ∧
    (_w65816_adc c v).P &&& 0x3C = c.P &&& 0x3C ∧
    ∃ s, host_run 13 (host_init false (fun a => if a = 0xFFFC then 0x00 else
        if a = 0xFFFD then 0x80 else if a = 0x8000 then 0x18 else if a = 0x8001 then 0xA9 else
        if a = 0x8002 then 0xFF else if a = 0x8003 then 0x69 else if a = 0x8004 then 0x01 else
        0xEA)) = some s ∧
      (s.pins &&& W65816_VPA ≠ 0 ∧ s.pins &&& W65816_VDA ≠ 0) ∧ _GA s.pins = 0x8005 ∧
      _A s.cpu = 0 ∧ s.cpu.P &&& W65816_CF ≠ 0 ∧ s.cpu.P &&& W65816_ZF ≠ 0 := by
  have hb : ¬ (c.bcd_enabled ≠ 0 ∧ c.P &&& W65816_DF ≠ 0) := by tauto
  have ha := A_lt c
  have hA := adc_bin_A c v hb
  obtain ⟨f0, f1, f7, f6, f2, f3, f4, f5⟩ := adc_bin_flags c v _ hv hb rfl
  have hc : (if c.P &&& W65816_CF ≠ 0 then 1 else 0) ≤ 1 := by split_ifs <;> omega
  have hci : ((if c.P &&& W65816_CF ≠ 0 then 1 else 0 : Int)) =
      (((if c.P &&& W65816_CF ≠ 0 then 1 else 0 : Nat)) : Int) := by split_ifs <;> rfl
  rw [hci]
  clear hci
  generalize (if c.P &&& W65816_CF ≠ 0 then 1 else 0) = cin at hA f0 f1 f7 f6 hc ⊢
  refine ⟨hA, ?_, ?_, ?_, ?_, ?_, and_3C_eq _ _ f2 f3 f4 f5, ?_⟩
  · rw [W65816_CF, flag_ne]; exact f0
  · rw [W65816_ZF, flag_ne, hA]; exact f1
  · rw [W65816_NF, flag_ne, flag_80, hA, testBit_mod256]
    simp only [Nat.reduceLT, decide_True, Bool.true_and]
    exact f7
  · rw [W65816_VF, flag_ne, flag_80, hA, f6]
    simp only [Nat.testBit_and, Nat.testBit_xor, testBit_mod256, Nat.reduceLT, decide_True,
      Bool.true_and]
  · rw [W65816_VF, flag_ne, f6]
    simp only [Nat.testBit_and, Nat.testBit_xor, testBit_NOT32, Nat.reduceLT, decide_True,
      Bool.true_and]
    simp only [Nat.testBit_to_div_mod, Nat.reducePow]
    split_ifs <;> simp <;> omega
  · exact ⟨(host_run 13 _).get (by decide), (Option.some_get _).symm, by decide, by decide,
      by decide, by decide, by decide⟩

theorem adc_binary_mode_witness :
    (0x01 : Nat) < 256 ∧
    (({ (w65816_init false).1 with C := 0xFF, P := 0x20 } : w65816_t).bcd_enabled = 0 ∨
      ({ (w65816_init false).1 with C := 0xFF, P := 0x20 } : w65816_t).P &&& W65816_DF = 0) ∧
    _A (_w65816_adc { (w65816_init false).1 with C := 0xFF, P := 0x20 } 0x01) = 0 ∧
    (_w65816_adc { (w65816_init false).1 with C := 0xFF, P := 0x20 } 0x01).P &&& W65816_CF ≠ 0 ∧
    (_w65816_adc { (w65816_init false).1 with C := 0xFF, P := 0x20 } 0x01).P &&& W65816_ZF ≠ 0 :=
  ⟨by decide, Or.inr (by decide),
    (adc_binary_mode { (w65816_init false).1 with C := 0xFF, P := 0x20 } 0x01 (by decide)
      (Or.inr (by decide))).1.trans (by decide),
    (adc_binary_mode { (w65816_init false).1 with C := 0xFF, P := 0x20 } 0x01 (by decide)
      (Or.inr (by decide))).2.1.2 (by decide),
    (adc_binary_mode { (w65816_init false).1 with C := 0xFF, P := 0x20 } 0x01 (by decide)
      (Or.inr (by decide))).2.2.1.2
      ((adc_binary_mode { (w65816_init false).1 with C := 0xFF, P := 0x20 } 0x01 (by decide)
      (Or.inr (by decide))).1.trans (by decide))⟩

/-- C20 (counterexample): with BCD enabled, D set and carry clear, `_w65816_adc` on A = 0xFF
and operand 0x01 leaves A = 0x66, not 0x00. -/
theorem bcd_adc_FF_01_leaves_66 :
    ({ (w65816_init false).1 with C := 0xFF, P := 0x08 } : w65816_t).bcd_enabled ≠ 0 ∧
    ({ (w65816_init false).1 with C := 0xFF, P := 0x08 } : w65816_t).P &&& W65816_DF ≠ 0 ∧
    ({ (w65816_init false).1 with C := 0xFF, P := 0x08 } : w65816_t).P &&& W65816_CF = 0 ∧
    _A { (w65816_init false).1 with C := 0xFF, P := 0x08 } = 0xFF ∧
    _A (_w65816_adc { (w65816_init false).1 with C := 0xFF, P := 0x08 } 0x01) = 0x66 ∧
    _A (_w65816_adc { (w65816_init false).1 with C := 0xFF, P := 0x08 } 0x01) ≠ 0x00 := by
  decide

theorem or_ZF_CF_set (x : Nat) :
    ((((x ||| W65816_ZF) % 256) ||| W65816_CF) % 256) &&& W65816_ZF ≠ 0 := by
  apply (flag_ne _ 1).2
  simp only [W65816_ZF, W65816_CF, testBit_mod256, Nat.testBit_or, Nat.reduceShiftLeft]
  simp only [Nat.testBit_to_div_mod, Nat.reducePow, Nat.reduceDiv, Nat.reduceMod, Nat.reduceLT,
    decide_True, Bool.true_and, Bool.or_true, Bool.or_false, Bool.and_true, Bool.true_or]

/-- C20 (amended): with BCD enabled, the D flag set and carry clear, `_w65816_adc` on A = 0xFF
and operand 0x01 leaves A = 0x66 with the C and Z flags set. -/
theorem adc_bcd_FF_plus_01 (c : w65816_t) (hb : c.bcd_enabled ≠ 0) (hd : c.P &&& W65816_DF ≠ 0)
    (hc : c.P &&& W65816_CF = 0) (hA : _A c = 0xFF) :
    _A (_w65816_adc c 0x01) = 0x66 ∧ (_w65816_adc c 0x01).P &&& W65816_CF ≠ 0 ∧
    (_w65816_adc c 0x01).P &&& W65816_ZF ≠ 0 := by
  have hc2 : ¬ (c.P &&& W65816_CF ≠ 0) := not_not.2 hc
  refine ⟨?_, ?_, ?_⟩
  · rw [_A, adc_bcd_C c 1 ⟨hb, hd⟩]
    simp only [hA, if_neg hc2]
    rw [lo_of_or]
    decide
  · rw [adc_bcd_P c 1 ⟨hb, hd⟩]
    simp +decide only [hA, if_neg hc2, if_true, if_false]
    exact or_CF_set _
  · rw [adc_bcd_P c 1 ⟨hb, hd⟩]
    simp +decide only [hA, if_neg hc2, if_true, if_false]
    exact or_ZF_CF_set _

theorem adc_bcd_FF_plus_01_witness :
    ({ (w65816_init false).1 with C := 0xFF, P := 0x08 } : w65816_t).bcd_enabled ≠ 0 ∧
    ({ (w65816_init false).1 with C := 0xFF, P := 0x08 } : w65816_t).P &&& W65816_DF ≠ 0 ∧
    ({ (w65816_init false).1 with C := 0xFF, P := 0x08 } : w65816_t).P &&& W65816_CF = 0 ∧
    _A { (w65816_init false).1 with C := 0xFF, P := 0x08 } = 0xFF ∧
    _A (_w65816_adc { (w65816_init false).1 with C := 0xFF, P := 0x08 } 0x01) = 0x66 ∧
    (_w65816_adc { (w65816_init false).1 with C := 0xFF, P := 0x08 } 0x01).P &&& W65816_CF ≠ 0 ∧
    (_w65816_adc { (w65816_init false).1 with C := 0xFF, P := 0x08 } 0x01).P &&& W65816_ZF ≠ 0 :=
  ⟨by decide, by decide, by decide, by decide,
    adc_bcd_FF_plus_01 { (w65816_init false).1 with C := 0xFF, P := 0x08 } (by decide)
      (by decide) (by decide) (by decide)⟩

/-! ## MVN under the host loop -/

/-- C18: MVN re-fetches its opcode from the bank left on the pins by its last write.  The
host loop starts from `w65816_init` with reset vector 0x8000 and the program CLC; XCE;
REP #$30; LDX #$1000; LDY #$2000; LDA #$000F; MVN $01,$00 at 0x8000 in bank 0, the byte 0x55
at 0x001000..0x00100F and NOPs elsewhere.  After 23 iterations the MVN opcode at 0x00800D is
fetched in native mode with 16-bit index registers, X = 0x1000, Y = 0x2000, C = 0x000F.  Seven
ticks later one byte has been copied and the sync fetch that should repeat MVN reads address
0x01800D, in the destination bank, although PC = 0x800D and PBR = 0; the NOP found there is
executed, and at the next sync fetch X = 0x1001, Y = 0x2001, C = 0x000E and
mem[0x012001] = 0xEA differs from mem[0x001001] = 0x55. -/
theorem mvn_refetch_uses_destination_bank :
    ∃ s, host_run 23 (host_init false
        (fun a => if a = 0xFFFC then 0x00 else if a = 0xFFFD then 0x80 else
          if a = 0x8000 then 0x18 else if a = 0x8001 then 0xFB else
          if a = 0x8002 then 0xC2 else if a = 0x8003 then 0x30 else
          if a = 0x8004 then 0xA2 else if a = 0x8005 then 0x00 else
          if a = 0x8006 then 0x10 else if a = 0x8007 then 0xA0 else
          if a = 0x8008 then 0x00 else if a = 0x8009 then 0x20 else
          if a = 0x800A then 0xA9 else if a = 0x800B then 0x0F else
          if a = 0x800C then 0x00 else if a = 0x800D then 0x54 else
          if a = 0x800E then 0x01 else if a = 0x800F then 0x00 else
          if 0x1000 ≤ a ∧ a < 0x1010 then 0x55 else 0xEA)) = some s ∧
      (s.pins &&& W65816_VPA ≠ 0 ∧ s.pins &&& W65816_VDA ≠ 0) ∧
      W65816_GET_ADDR s.pins = 0x00800D ∧ _GD s.pins = 0x54 ∧
      s.cpu.emulation = 0 ∧ s.cpu.P &&& W65816_XF = 0 ∧
      s.cpu.X = 0x1000 ∧ s.cpu.Y = 0x2000 ∧ s.cpu.C = 0x000F ∧
      (∀ k, k < 6 → ∃ r, host_tick k s = some r ∧
        ¬ (r.2 &&& W65816_VPA ≠ 0 ∧ r.2 &&& W65816_VDA ≠ 0)) ∧
      (∃ s1, host_run 7 s = some s1 ∧
        (s1.pins &&& W65816_VPA ≠ 0 ∧ s1.pins &&& W65816_VDA ≠ 0) ∧
        W65816_GET_ADDR s1.pins = 0x01800D ∧ s1.cpu.PC = 0x800D ∧ s1.cpu.PBR = 0 ∧
        _GD s1.pins = 0xEA ∧ s1.mem 0x012000 = 0x55) ∧
      ∃ s2, host_run 9 s = some s2 ∧
        (s2.pins &&& W65816_VPA ≠ 0 ∧ s2.pins &&& W65816_VDA ≠ 0) ∧
        s2.cpu.X = 0x1001 ∧ s2.cpu.Y = 0x2001 ∧ s2.cpu.C = 0x000E ∧
        s2.mem 0x012001 = 0xEA ∧ s2.mem 0x001001 = 0x55 := by
  refine ⟨(host_run 23 _).get (by decide), (Option.some_get _).symm, by decide, by decide,
    by decide, by decide, by decide, by decide, by decide, by decide, ?_, ?_, ?_⟩
  · intro k hk
    interval_cases k <;>
      exact ⟨(host_tick _ _).get (by decide), (Option.some_get _).symm, by decide⟩
  · exact ⟨(host_run 7 _).get (by decide), (Option.some_get _).symm, by decide, by decide,
      by decide, by decide, by decide, by decide⟩
  · exact ⟨(host_run 9 _).get (by decide), (Option.some_get _).symm, by decide, by decide,
      by decide, by decide, by decide, by decide⟩

/-! ## Ticks of an instruction stream with no interrupt pending -/

theorem tick_finish_C (c : w65816_t) (p : Nat) : (tick_finish c p).1.C = c.C := by
  simp only [tick_finish]; split_ifs <;> rfl

theorem sync_flags_zero (c : w65816_t) (hb : c.brk_flags = 0) (hi : c.irq_pip = 0)
    (hn : c.nmi_pip = 0) : sync_flags c false = 0 := by
  simp [sync_flags, hb, hi, hn]

/-- A sync tick with no interrupt pending decodes sub-cycle 0 of the opcode on the data bus. -/
theorem tick_sync_op (c : w65816_t) (a d bank : Nat) (rw : Bool) (hb : c.brk_flags = 0)
    (hi : c.irq_pip = 0) (hn : c.nmi_pip = 0) :
    w65816_tick c (qpins a d rw true true bank).word =
      (w65816_decode (((d % 256) <<< 3) % 65536)
        { c with IR := ((((d % 256) <<< 3) % 65536) + 1) % 65536, brk_flags := 0,
                 irq_pip := c.irq_pip &&& 0x3FF, nmi_pip := c.nmi_pip &&& 0x3FF,
                 PC := (c.PC + 1) % 65536 }
        (qpins a d true false false bank).word).map (fun r => tick_finish r.1 r.2) := by
  have hres : (qpins a d rw true true bank).res = false := rfl
  rw [tick_sync_quiet c _ rfl rfl rfl rfl rfl, hres, sync_flags_zero c hb hi hn,
    if_neg (by simp)]
  rfl

/-- A tick between two sync ticks decodes the sub-cycle held in IR. -/
theorem tick_step_op (c : w65816_t) (a d bank : Nat) (rw vpa vda : Bool)
    (hs : (vpa && vda) = false) :
    w65816_tick c (qpins a d rw vpa vda bank).word =
      (w65816_decode c.IR { c with IR := (c.IR + 1) % 65536 }
        (qpins a d true false false bank).word).map (fun r => tick_finish r.1 r.2) := by
  rw [tick_quiet c _ rfl rfl rfl hs]
  rfl

/-- The interrupt pipelines stay empty across a tick whose IRQ, NMI and RDY lines are low. -/
theorem tick_pips_zero (c : w65816_t) (f : PinF) (r : w65816_t × Nat)
    (hrdy : f.rdy = false) (hirq : f.irq = false) (hnmi : f.nmi = false)
    (h : w65816_tick c f.word = some r) (hi : c.irq_pip = 0) (hn : c.nmi_pip = 0) :
    r.1.irq_pip = 0 ∧ r.1.nmi_pip = 0 := by
  have key : ∀ (ir : Nat) (x : w65816_t) (p : Nat),
      (w65816_decode ir x p).map (fun r => tick_finish r.1 r.2) = some r →
      x.irq_pip = 0 → x.nmi_pip = 0 → r.1.irq_pip = 0 ∧ r.1.nmi_pip = 0 := by
    intro ir x p hd h1 h2
    simp only [Option.map_eq_some'] at hd
    obtain ⟨y, hy, e⟩ := hd
    subst e
    have hp := decode_pips _ _ _ _ hy
    rw [tick_finish_irq_pip, tick_finish_nmi_pip]
    cases hbd : branch_delay ir x with
    | true => rw [(hp.1 hbd).1, (hp.1 hbd).2, h1, h2]; exact ⟨rfl, rfl⟩
    | false => rw [(hp.2 hbd).1, (hp.2 hbd).2, h1, h2]; exact ⟨rfl, rfl⟩
  cases hv : f.vpa && f.vda with
  | false =>
    rw [tick_quiet c f hrdy hirq hnmi hv] at h
    exact key _ _ _ h hi hn
  | true =>
    simp only [Bool.and_eq_true] at hv
    rw [tick_sync_quiet c f hrdy hirq hnmi hv.1 hv.2] at h
    split_ifs at h
    · exact key _ _ _ h (by show c.irq_pip &&& 0x3FF = 0; rw [hi]; rfl)
        (by show c.nmi_pip &&& 0x3FF = 0; rw [hn]; rfl)
    · exact key _ _ _ h (by show c.irq_pip &&& 0x3FF = 0; rw [hi]; rfl)
        (by show c.nmi_pip &&& 0x3FF = 0; rw [hn]; rfl)

theorem tick_pips_q (c : w65816_t) (a d bank : Nat) (rw vpa vda : Bool) (c1 : w65816_t) (p : Nat)
    (h : w65816_tick c (qpins a d rw vpa vda bank).word = some (c1, p))
    (hi : c.irq_pip = 0) (hn : c.nmi_pip = 0) : c1.irq_pip = 0 ∧ c1.nmi_pip = 0 :=
  tick_pips_zero c _ _ rfl rfl rfl h hi hn

theorem host_step_qwrite (c : w65816_t) (p : Nat) (mem : Mem) (c1 : w65816_t) (a d bank : Nat)
    (vpa vda : Bool) (h : w65816_tick c p = some (c1, (qpins a d false vpa vda bank).word)) :
    host_step { cpu := c, pins := p, mem := mem } =
      some { cpu := c1, pins := (qpins a d false vpa vda bank).word,
             mem := fun x => if x = a % 0x10000 + bank % 0x100 * 0x10000 then d % 256 else mem x } := by
  rw [host_step_write c p mem c1 _ h rfl]
  rfl

/-! ### CLC -/

theorem decode_18_0 (c : w65816_t) (p : Nat) : w65816_decode 0xC0 c p = op_18 0 c p := rfl
theorem decode_18_1 (c : w65816_t) (p : Nat) : w65816_decode 0xC1 c p = op_18 1 c p := rfl

theorem op18_0_word (c : w65816_t) (f : PinF) :
    op_18 0 c f.word = some (c, ({ f with a := c.PC } : PinF).word) := by
  simp only [op_18, SA_word]

theorem op18_1_word (c : w65816_t) (f : PinF) :
    op_18 1 c f.word = some ({ c with P := (c.P &&& NOT32 0x1) % 256 },
      ({ f with a := c.PC, vpa := true, vda := true } : PinF).word) := by
  simp only [op_18, FETCH_word]

theorem clc_t0 (c : w65816_t) (a bank : Nat) (rw : Bool) (hb : c.brk_flags = 0)
    (hi : c.irq_pip = 0) (hn : c.nmi_pip = 0) :
    ∃ c1, w65816_tick c (qpins a 0x18 rw true true bank).word =
        some (c1, (qpins ((c.PC + 1) % 65536) 0x18 true false false bank).word) ∧
      c1.IR = 0xC1 ∧ c1.PC = (c.PC + 1) % 65536 ∧ c1.C = c.C ∧
      c1.P = (if c.emulation ≠ 0 then (c.P ||| 0x20) % 256 else c.P) ∧
      c1.S = (if c.emulation ≠ 0 then 0x0100 ||| (c.S &&& 0xFF) else c.S) ∧
      c1.emulation = c.emulation ∧ c1.brk_flags = 0 := by
  rw [tick_sync_op c a 0x18 bank rw hb hi hn]
  have e : ((0x18 % 256) <<< 3) % 65536 = 0xC0 := by decide
  rw [e, decode_18_0, op18_0_word, Option.map_some', tick_finish_pair]
  exact ⟨_, rfl, tick_finish_IR _ _, tick_finish_PC _ _, tick_finish_C _ _, tick_finish_P _ _,
    tick_finish_S _ _, tick_finish_emulation _ _, tick_finish_brk _ _⟩

theorem clc_t1 (c : w65816_t) (a d bank : Nat) (rw vpa vda : Bool)
    (hs : (vpa && vda) = false) (hIR : c.IR = 0xC1) :
    ∃ c1, w65816_tick c (qpins a d rw vpa vda bank).word =
        some (c1, (qpins c.PC d true true true bank).word) ∧
      c1.IR = 0xC2 ∧ c1.PC = c.PC ∧ c1.C = c.C ∧
      c1.P = (if c.emulation ≠ 0 then ((c.P &&& NOT32 0x1) % 256 ||| 0x20) % 256
        else (c.P &&& NOT32 0x1) % 256) ∧
      c1.S = (if c.emulation ≠ 0 then 0x0100 ||| (c.S &&& 0xFF) else c.S) ∧
      c1.emulation = c.emulation ∧ c1.brk_flags = c.brk_flags := by
  rw [tick_step_op c a d bank rw vpa vda hs, hIR, decode_18_1, op18_1_word, Option.map_some',
    tick_finish_pair]
  exact ⟨_, rfl, tick_finish_IR _ _, tick_finish_PC _ _, tick_finish_C _ _, tick_finish_P _ _,
    tick_finish_S _ _, tick_finish_emulation _ _, tick_finish_brk _ _⟩

/-! ## Sub-cycles of the opcodes of the instruction-level proofs -/

set_option linter.unusedVariables false

/-! ### XCE (0xFB) -/

theorem xce_PC (c : w65816_t) : (_w65816_xce c).PC = c.PC := by
  simp only [_w65816_xce]; split_ifs <;> rfl

theorem xce_C (c : w65816_t) : (_w65816_xce c).C = c.C := by
  simp only [_w65816_xce]; split_ifs <;> rfl

theorem xce_S (c : w65816_t) : (_w65816_xce c).S = c.S := by
  simp only [_w65816_xce]; split_ifs <;> rfl

theorem xce_IR (c : w65816_t) : (_w65816_xce c).IR = c.IR := by
  simp only [_w65816_xce]; split_ifs <;> rfl

theorem xce_brk (c : w65816_t) : (_w65816_xce c).brk_flags = c.brk_flags := by
  simp only [_w65816_xce]; split_ifs <;> rfl

theorem xce_IR_frame (c : w65816_t) (k : Nat) :
    _w65816_xce { c with IR := k } = { _w65816_xce c with IR := k } := by
  simp only [_w65816_xce]; split_ifs <;> rfl

theorem decode_FB_0 (c : w65816_t) (p : Nat) :
    w65816_decode 0x7D8 c p = op_FB 0 c p := by
  show decode_F 0xB 0 c p = _
  rfl

theorem opFB_0_word (c : w65816_t) (f : PinF) :
    op_FB 0 c f.word = some (c,
      ({ f with a := c.PC } : PinF).word) := by
  simp only [op_FB, SA_word]

/-- Sync tick of XCE: the opcode is decoded and PC is incremented. -/
theorem xce_t0 (c : w65816_t) (a bank : Nat) (rw : Bool) (hb : c.brk_flags = 0)
    (hi : c.irq_pip = 0) (hn : c.nmi_pip = 0) :
    ∃ c1, w65816_tick c (qpins a 0xFB rw true true bank).word =
        some (c1, (qpins ((c.PC + 1) % 65536) 0xFB true false false bank).word) ∧
      c1.IR = 0x7D9 ∧ c1.PC = ((c.PC + 1) % 65536) ∧ c1.C = c.C ∧
      c1.P = (if c.emulation ≠ 0 then (c.P ||| 0x20) % 256 else c.P) ∧
      c1.S = (if c.emulation ≠ 0 then 0x0100 ||| (c.S &&& 0xFF) else c.S) ∧
      c1.emulation = c.emulation ∧ c1.brk_flags = 0 := by
  rw [tick_sync_op c a 0xFB bank rw hb hi hn]
  have e : ((0xFB % 256) <<< 3) % 65536 = 0x7D8 := by decide
  rw [e, decode_FB_0, opFB_0_word, Option.map_some', tick_finish_pair]
  exact ⟨_, rfl, tick_finish_IR _ _, tick_finish_PC _ _, tick_finish_C _ _, tick_finish_P _ _, tick_finish_S _ _, tick_finish_emulation _ _, tick_finish_brk _ _⟩

theorem decode_FB_1 (c : w65816_t) (p : Nat) :
    w65816_decode 0x7D9 c p = op_FB 1 c p := by
  show decode_F 0xB 1 c p = _
  rfl

theorem opFB_1_word (c : w65816_t) (f : PinF) :
    op_FB 1 c f.word = some (_w65816_xce c,
      ({ f with a := c.PC, vpa := true, vda := true } : PinF).word) := by
  simp only [op_FB, FETCH_word, xce_PC]

/-- Sub-cycle 1 of XCE: carry and emulation flag are exchanged and the next opcode fetch is
issued at PC. -/
theorem xce_t1 (c : w65816_t) (a d bank : Nat) (rw vpa vda : Bool)
    (hs : (vpa && vda) = false) (hIR : c.IR = 0x7D9) :
    ∃ c1, w65816_tick c (qpins a d rw vpa vda bank).word =
        some (c1, (qpins c.PC d true true true bank).word) ∧
      c1.IR = 0x7DA ∧ c1.PC = c.PC ∧ c1.C = c.C ∧
      c1.P = (if (_w65816_xce c).emulation ≠ 0 then ((_w65816_xce c).P ||| 0x20) % 256
        else (_w65816_xce c).P) ∧
      c1.S = (if (_w65816_xce c).emulation ≠ 0 then 0x0100 ||| (c.S &&& 0xFF) else c.S) ∧
      c1.emulation = (_w65816_xce c).emulation ∧ c1.brk_flags = c.brk_flags := by
  rw [tick_step_op c a d bank rw vpa vda hs, hIR, decode_FB_1, opFB_1_word, Option.map_some',
    tick_finish_pair, xce_IR_frame]
  refine ⟨_, rfl, tick_finish_IR _ _, ?_, ?_, tick_finish_P _ _, ?_,
    tick_finish_emulation _ _, ?_⟩
  · rw [tick_finish_PC]; exact xce_PC c
  · rw [tick_finish_C]; exact xce_C c
  · rw [tick_finish_S]
    show (if (_w65816_xce c).emulation ≠ 0 then 0x0100 ||| ((_w65816_xce c).S &&& 0xFF)
      else (_w65816_xce c).S) = _
    rw [xce_S]
  · rw [tick_finish_brk]; exact xce_brk c

/-! ### REP # (0xC2) -/

theorem decode_C2_0 (c : w65816_t) (p : Nat) :
    w65816_decode 0x610 c p = op_C2 0 c p := by
  show decode_C 0x2 0 c p = _
  rfl

theorem opC2_0_word (c : w65816_t) (f : PinF) :
    op_C2 0 c f.word = some ({ c with PC := (c.PC + 1) % 65536 },
      ({ f with a := c.PC, vpa := true } : PinF).word) := by
  simp only [op_C2, VPA_word, SA_word]

/-- Sync tick of REP #: the operand byte after the opcode is addressed with VPA. -/
theorem rep_t0 (c : w65816_t) (a bank : Nat) (rw : Bool) (hb : c.brk_flags = 0)
    (hi : c.irq_pip = 0) (hn : c.nmi_pip = 0) :
    ∃ c1, w65816_tick c (qpins a 0xC2 rw true true bank).word =
        some (c1, (qpins ((c.PC + 1) % 65536) 0xC2 true true false bank).word) ∧
      c1.IR = 0x611 ∧ c1.PC = ((c.PC + 1) % 65536 + 1) % 65536 ∧ c1.C = c.C ∧
      c1.P = (if c.emulation ≠ 0 then (c.P ||| 0x20) % 256 else c.P) ∧
      c1.S = (if c.emulation ≠ 0 then 0x0100 ||| (c.S &&& 0xFF) else c.S) ∧
      c1.emulation = c.emulation ∧ c1.brk_flags = 0 := by
  rw [tick_sync_op c a 0xC2 bank rw hb hi hn]
  have e : ((0xC2 % 256) <<< 3) % 65536 = 0x610 := by decide
  rw [e, decode_C2_0, opC2_0_word, Option.map_some', tick_finish_pair]
  exact ⟨_, rfl, tick_finish_IR _ _, tick_finish_PC _ _, tick_finish_C _ _, tick_finish_P _ _, tick_finish_S _ _, tick_finish_emulation _ _, tick_finish_brk _ _⟩

theorem decode_C2_1 (c : w65816_t) (p : Nat) :
    w65816_decode 0x611 c p = op_C2 1 c p := by
  show decode_C 0x2 1 c p = _
  rfl

theorem opC2_1_word (c : w65816_t) (f : PinF) :
    op_C2 1 c f.word = some ({ c with P := (c.P &&& NOT32 (f.d % 256)) % 256 },
      ({ f with a := c.PC } : PinF).word) := by
  simp only [op_C2, GD_word, SA_word]

/-- Sub-cycle 1 of REP #: the bits of the operand are cleared in P. -/
theorem rep_t1 (c : w65816_t) (a d bank : Nat) (rw vpa vda : Bool)
    (hs : (vpa && vda) = false) (hIR : c.IR = 0x611) :
    ∃ c1, w65816_tick c (qpins a d rw vpa vda bank).word =
        some (c1, (qpins c.PC d true false false bank).word) ∧
      c1.IR = 0x612 ∧ c1.PC = c.PC ∧ c1.C = c.C ∧
      c1.P = (if c.emulation ≠ 0 then ((c.P &&& NOT32 (d % 256)) % 256 ||| 0x20) % 256 else (c.P &&& NOT32 (d % 256)) % 256) ∧
      c1.S = (if c.emulation ≠ 0 then 0x0100 ||| (c.S &&& 0xFF) else c.S) ∧
      c1.emulation = c.emulation ∧ c1.brk_flags = c.brk_flags := by
  rw [tick_step_op c a d bank rw vpa vda hs, hIR, decode_C2_1,
    opC2_1_word, Option.map_some', tick_finish_pair]
  exact ⟨_, rfl, tick_finish_IR _ _, tick_finish_PC _ _, tick_finish_C _ _, tick_finish_P _ _, tick_finish_S _ _, tick_finish_emulation _ _, tick_finish_brk _ _⟩

theorem decode_C2_2 (c : w65816_t) (p : Nat) :
    w65816_decode 0x612 c p = op_C2 2 c p := by
  show decode_C 0x2 2 c p = _
  rfl

theorem opC2_2_word (c : w65816_t) (f : PinF) :
    op_C2 2 c f.word = some (c,
      ({ f with a := c.PC, vpa := true, vda := true } : PinF).word) := by
  simp only [op_C2, FETCH_word]

/-- Sub-cycle 2 of REP #: the next opcode fetch is issued at PC. -/
theorem rep_t2 (c : w65816_t) (a d bank : Nat) (rw vpa vda : Bool)
    (hs : (vpa && vda) = false) (hIR : c.IR = 0x612) :
    ∃ c1, w65816_tick c (qpins a d rw vpa vda bank).word =
        some (c1, (qpins c.PC d true true true bank).word) ∧
      c1.IR = 0x613 ∧ c1.PC = c.PC ∧ c1.C = c.C ∧
      c1.P = (if c.emulation ≠ 0 then (c.P ||| 0x20) % 256 else c.P) ∧
      c1.S = (if c.emulation ≠ 0 then 0x0100 ||| (c.S &&& 0xFF) else c.S) ∧
      c1.emulation = c.emulation ∧ c1.brk_flags = c.brk_flags := by
  rw [tick_step_op c a d bank rw vpa vda hs, hIR, decode_C2_2,
    opC2_2_word, Option.map_some', tick_finish_pair]
  exact ⟨_, rfl, tick_finish_IR _ _, tick_finish_PC _ _, tick_finish_C _ _, tick_finish_P _ _, tick_finish_S _ _, tick_finish_emulation _ _, tick_finish_brk _ _⟩

/-! ### LDA # (0xA9) -/

theorem decode_A9_0 (c : w65816_t) (p : Nat) :
    w65816_decode 0x548 c p = op_A9 0 c p := by
  show decode_A 0x9 0 c p = _
  rfl

theorem opA9_0_word (c : w65816_t) (f : PinF) :
    op_A9 0 c f.word = some ({ c with PC := (c.PC + 1) % 65536 },
      ({ f with a := c.PC, vpa := true } : PinF).word) := by
  simp only [op_A9, VPA_word, SA_word]

/-- Sync tick of LDA #: the operand byte after the opcode is addressed with VPA. -/
theorem lda_t0 (c : w65816_t) (a bank : Nat) (rw : Bool) (hb : c.brk_flags = 0)
    (hi : c.irq_pip = 0) (hn : c.nmi_pip = 0) :
    ∃ c1, w65816_tick c (qpins a 0xA9 rw true true bank).word =
        some (c1, (qpins ((c.PC + 1) % 65536) 0xA9 true true false bank).word) ∧
      c1.IR = 0x549 ∧ c1.PC = ((c.PC + 1) % 65536 + 1) % 65536 ∧ c1.C = c.C ∧
      c1.P = (if c.emulation ≠ 0 then (c.P ||| 0x20) % 256 else c.P) ∧
      c1.S = (if c.emulation ≠ 0 then 0x0100 ||| (c.S &&& 0xFF) else c.S) ∧
      c1.emulation = c.emulation ∧ c1.brk_flags = 0 := by
  rw [tick_sync_op c a 0xA9 bank rw hb hi hn]
  have e : ((0xA9 % 256) <<< 3) % 65536 = 0x548 := by decide
  rw [e, decode_A9_0, opA9_0_word, Option.map_some', tick_finish_pair]
  exact ⟨_, rfl, tick_finish_IR _ _, tick_finish_PC _ _, tick_finish_C _ _, tick_finish_P _ _, tick_finish_S _ _, tick_finish_emulation _ _, tick_finish_brk _ _⟩

theorem decode_A9_1 (c : w65816_t) (p : Nat) :
    w65816_decode 0x549 c p = op_A9 1 c p := by
  show decode_A 0x9 1 c p = _
  rfl

theorem a8_set_A (c : w65816_t) (v : Nat) : _a8 (set_A c v) = _a8 c := rfl

theorem set_A_PC (c : w65816_t) (v : Nat) : (set_A c v).PC = c.PC := rfl

theorem NZ_PC (c : w65816_t) (v : Nat) : (_NZ c v).PC = c.PC := rfl

theorem NZ16_PC (c : w65816_t) (v : Nat) : (_NZ16 c v).PC = c.PC := rfl

theorem set_B_PC (c : w65816_t) (v : Nat) : (set_B c v).PC = c.PC := rfl

theorem opA9_1_word_a8 (c : w65816_t) (f : PinF) (ha : _a8 c = true) :
    op_A9 1 c f.word = some (_NZ (set_A c (f.d % 256)) (_A (set_A c (f.d % 256))),
      ({ f with a := c.PC, vpa := true, vda := true } : PinF).word) := by
  simp only [op_A9, GD_word, a8_set_A, ha, if_true, FETCH_word, NZ_PC, set_A_PC]

theorem opA9_1_word_a16 (c : w65816_t) (f : PinF) (ha : _a8 c = false) :
    op_A9 1 c f.word = some ({ set_A c (f.d % 256) with PC := (c.PC + 1) % 65536 },
      ({ f with a := c.PC, vpa := true } : PinF).word) := by
  simp only [op_A9, GD_word, a8_set_A, ha, Bool.false_eq_true, if_false, VPA_word, SA_word, set_A_PC]

/-- Sub-cycle 1 of LDA # with an 8-bit accumulator: A is loaded, N and Z are set and the next opcode
fetch is issued. -/
theorem lda_t1_a8 (c : w65816_t) (a d bank : Nat) (rw vpa vda : Bool)
    (hs : (vpa && vda) = false) (hIR : c.IR = 0x549) (ha : _a8 c = true) :
    ∃ c1, w65816_tick c (qpins a d rw vpa vda bank).word =
        some (c1, (qpins c.PC d true true true bank).word) ∧
      c1.IR = 0x54A ∧ c1.PC = c.PC ∧ c1.C = (c.C &&& 0xFF00) ||| (d % 256 &&& 0xFF) ∧
      c1.P = (if c.emulation ≠ 0 then ((_NZ (set_A c (d % 256)) (_A (set_A c (d % 256)))).P ||| 0x20) % 256 else (_NZ (set_A c (d % 256)) (_A (set_A c (d % 256)))).P) ∧
      c1.S = (if c.emulation ≠ 0 then 0x0100 ||| (c.S &&& 0xFF) else c.S) ∧
      c1.emulation = c.emulation ∧ c1.brk_flags = c.brk_flags := by
  rw [tick_step_op c a d bank rw vpa vda hs, hIR, decode_A9_1,
    opA9_1_word_a8, Option.map_some', tick_finish_pair]
  · exact ⟨_, rfl, tick_finish_IR _ _, tick_finish_PC _ _, tick_finish_C _ _, tick_finish_P _ _, tick_finish_S _ _, tick_finish_emulation _ _, tick_finish_brk _ _⟩
  · exact ha

/-- Sub-cycle 1 of LDA # with a 16-bit accumulator: the low byte is loaded and the second operand
byte is addressed with VPA. -/
theorem lda_t1_a16 (c : w65816_t) (a d bank : Nat) (rw vpa vda : Bool)
    (hs : (vpa && vda) = false) (hIR : c.IR = 0x549) (ha : _a8 c = false) :
    ∃ c1, w65816_tick c (qpins a d rw vpa vda bank).word =
        some (c1, (qpins c.PC d true true false bank).word) ∧
      c1.IR = 0x54A ∧ c1.PC = (c.PC + 1) % 65536 ∧ c1.C = (c.C &&& 0xFF00) ||| (d % 256 &&& 0xFF) ∧
      c1.P = (if c.emulation ≠ 0 then (c.P ||| 0x20) % 256 else c.P) ∧
      c1.S = (if c.emulation ≠ 0 then 0x0100 ||| (c.S &&& 0xFF) else c.S) ∧
      c1.emulation = c.emulation ∧ c1.brk_flags = c.brk_flags := by
  rw [tick_step_op c a d bank rw vpa vda hs, hIR, decode_A9_1,
    opA9_1_word_a16, Option.map_some', tick_finish_pair]
  · exact ⟨_, rfl, tick_finish_IR _ _, tick_finish_PC _ _, tick_finish_C _ _, tick_finish_P _ _, tick_finish_S _ _, tick_finish_emulation _ _, tick_finish_brk _ _⟩
  · exact ha

theorem decode_A9_2 (c : w65816_t) (p : Nat) :
    w65816_decode 0x54A c p = op_A9 2 c p := by
  show decode_A 0x9 2 c p = _
  rfl

theorem opA9_2_word (c : w65816_t) (f : PinF) :
    op_A9 2 c f.word = some (_NZ16 (set_B c (f.d % 256)) (_C (set_B c (f.d % 256))),
      ({ f with a := c.PC, vpa := true, vda := true } : PinF).word) := by
  simp only [op_A9, GD_word, FETCH_word, NZ16_PC, set_B_PC]

/-- Sub-cycle 2 of LDA # (16-bit accumulator): the high byte is loaded and the next opcode fetch is
issued. -/
theorem lda_t2 (c : w65816_t) (a d bank : Nat) (rw vpa vda : Bool)
    (hs : (vpa && vda) = false) (hIR : c.IR = 0x54A) :
    ∃ c1, w65816_tick c (qpins a d rw vpa vda bank).word =
        some (c1, (qpins c.PC d true true true bank).word) ∧
      c1.IR = 0x54B ∧ c1.PC = c.PC ∧ c1.C = (c.C &&& 0xFF) ||| ((d % 256 &&& 0xFF) <<< 8) ∧
      c1.P = (if c.emulation ≠ 0 then ((_NZ16 (set_B c (d % 256)) (_C (set_B c (d % 256)))).P ||| 0x20) % 256 else (_NZ16 (set_B c (d % 256)) (_C (set_B c (d % 256)))).P) ∧
      c1.S = (if c.emulation ≠ 0 then 0x0100 ||| (c.S &&& 0xFF) else c.S) ∧
      c1.emulation = c.emulation ∧ c1.brk_flags = c.brk_flags := by
  rw [tick_step_op c a d bank rw vpa vda hs, hIR, decode_A9_2,
    opA9_2_word, Option.map_some', tick_finish_pair]
  exact ⟨_, rfl, tick_finish_IR _ _, tick_finish_PC _ _, tick_finish_C _ _, tick_finish_P _ _, tick_finish_S _ _, tick_finish_emulation _ _, tick_finish_brk _ _⟩

/-! ### STA d (0x85) -/

theorem GAL_word (f : PinF) : _GAL f.word = f.a % 0x10000 + f.bank % 0x100 * 0x10000 := by
  have b := word_bounds f
  rw [_GAL, and_FFFF, and_FF0000, Nat.shiftRight_eq_div_pow, Nat.or_comm,
    or_eq_add 16 _ _ (by omega) (by omega)]
  simp only [PinF.word]
  omega

theorem SALD_word (f : PinF) (x y : Nat) (hx : x < 0x100000000) :
    _SALD f.word x y = ({ f with a := x, d := y } : PinF).word := by
  have e : (x >>> 16) &&& 0xFF0000 = 0 := by
    have h := and_mask (x >>> 16) 8 16
    have e2 : ((2:Nat) ^ 8 - 1) <<< 16 = 0xFF0000 := by decide
    rw [e2] at h
    rw [h, Nat.shiftRight_eq_div_pow]
    have : x / 2 ^ 16 / 2 ^ 16 = 0 := by
      rw [Nat.div_div_eq_div_mul]
      exact Nat.div_eq_of_lt (by norm_num; exact hx)
    rw [this]
    rfl
  rw [_SALD, e, Nat.or_zero]
  exact SAD_word f x y

theorem decode_85_0 (c : w65816_t) (p : Nat) :
    w65816_decode 0x428 c p = op_85 0 c p := by
  show decode_8 0x5 0 c p = _
  rfl

theorem op85_0_word (c : w65816_t) (f : PinF) :
    op_85 0 c f.word = some ({ c with PC := (c.PC + 1) % 65536 },
      ({ f with a := c.PC, vpa := true } : PinF).word) := by
  simp only [op_85, VPA_word, SA_word]

/-- Sync tick of STA d: the operand byte after the opcode is addressed with VPA. -/
theorem sta_t0 (c : w65816_t) (a bank : Nat) (rw : Bool) (hb : c.brk_flags = 0)
    (hi : c.irq_pip = 0) (hn : c.nmi_pip = 0) :
    ∃ c1, w65816_tick c (qpins a 0x85 rw true true bank).word =
        some (c1, (qpins ((c.PC + 1) % 65536) 0x85 true true false bank).word) ∧
      c1.IR = 0x429 ∧ c1.PC = ((c.PC + 1) % 65536 + 1) % 65536 ∧ c1.C = c.C ∧
      c1.P = (if c.emulation ≠ 0 then (c.P ||| 0x20) % 256 else c.P) ∧
      c1.S = (if c.emulation ≠ 0 then 0x0100 ||| (c.S &&& 0xFF) else c.S) ∧
      c1.emulation = c.emulation ∧ c1.brk_flags = 0 := by
  rw [tick_sync_op c a 0x85 bank rw hb hi hn]
  have e : ((0x85 % 256) <<< 3) % 65536 = 0x428 := by decide
  rw [e, decode_85_0, op85_0_word, Option.map_some', tick_finish_pair]
  exact ⟨_, rfl, tick_finish_IR _ _, tick_finish_PC _ _, tick_finish_C _ _, tick_finish_P _ _, tick_finish_S _ _, tick_finish_emulation _ _, tick_finish_brk _ _⟩

theorem decode_85_1 (c : w65816_t) (p : Nat) :
    w65816_decode 0x429 c p = op_85 1 c p := by
  show decode_8 0x5 1 c p = _
  rfl

theorem op85_1_word (c : w65816_t) (f : PinF) :
    op_85 1 c f.word = some (c,
      ({ f with a := f.d % 256, d := _A c, rw := false, vda := true } : PinF).word) := by
  simp only [op_85, VDA_word, GD_word, SA_word, SD_word, WR_word]

/-- Sub-cycle 1 of STA d: A is written to the direct-page address given by the operand. -/
theorem sta_t1 (c : w65816_t) (a d bank : Nat) (rw vpa vda : Bool)
    (hs : (vpa && vda) = false) (hIR : c.IR = 0x429) :
    ∃ c1, w65816_tick c (qpins a d rw vpa vda bank).word =
        some (c1, (qpins (d % 256) (_A c) false false true bank).word) ∧
      c1.IR = 0x42A ∧ c1.PC = c.PC ∧ c1.C = c.C ∧
      c1.P = (if c.emulation ≠ 0 then (c.P ||| 0x20) % 256 else c.P) ∧
      c1.S = (if c.emulation ≠ 0 then 0x0100 ||| (c.S &&& 0xFF) else c.S) ∧
      c1.emulation = c.emulation ∧ c1.brk_flags = c.brk_flags := by
  rw [tick_step_op c a d bank rw vpa vda hs, hIR, decode_85_1,
    op85_1_word, Option.map_some', tick_finish_pair]
  exact ⟨_, rfl, tick_finish_IR _ _, tick_finish_PC _ _, tick_finish_C _ _, tick_finish_P _ _, tick_finish_S _ _, tick_finish_emulation _ _, tick_finish_brk _ _⟩

theorem decode_85_2 (c : w65816_t) (p : Nat) :
    w65816_decode 0x42A c p = op_85 2 c p := by
  show decode_8 0x5 2 c p = _
  rfl

theorem op85_2_word_a8 (c : w65816_t) (f : PinF) (ha : _a8 c = true) :
    op_85 2 c f.word = some (c,
      ({ f with a := c.PC, vpa := true, vda := true } : PinF).word) := by
  simp only [op_85, ha, if_true, FETCH_word]

theorem op85_2_word_a16 (c : w65816_t) (f : PinF) (ha : _a8 c = false) :
    op_85 2 c f.word = some (c,
      ({ f with a := (f.a % 0x10000 + f.bank % 0x100 * 0x10000 + 1) % 0x100000000, d := _B c, rw := false, vda := true } : PinF).word) := by
  have hx : (f.a % 0x10000 + f.bank % 0x100 * 0x10000 + 1) % 0x100000000 < 0x100000000 :=
    Nat.mod_lt _ (by norm_num)
  have hS := SALD_word ({ f with vda := true } : PinF) _ (_B c) hx
  simp only [op_85, ha, Bool.false_eq_true, if_false, VDA_word, GAL_word, hS, WR_word]

/-- Sub-cycle 2 of STA d with an 8-bit accumulator: the next opcode fetch is issued. -/
theorem sta_t2_a8 (c : w65816_t) (a d bank : Nat) (rw vpa vda : Bool)
    (hs : (vpa && vda) = false) (hIR : c.IR = 0x42A) (ha : _a8 c = true) :
    ∃ c1, w65816_tick c (qpins a d rw vpa vda bank).word =
        some (c1, (qpins c.PC d true true true bank).word) ∧
      c1.IR = 0x42B ∧ c1.PC = c.PC ∧ c1.C = c.C ∧
      c1.P = (if c.emulation ≠ 0 then (c.P ||| 0x20) % 256 else c.P) ∧
      c1.S = (if c.emulation ≠ 0 then 0x0100 ||| (c.S &&& 0xFF) else c.S) ∧
      c1.emulation = c.emulation ∧ c1.brk_flags = c.brk_flags := by
  rw [tick_step_op c a d bank rw vpa vda hs, hIR, decode_85_2,
    op85_2_word_a8, Option.map_some', tick_finish_pair]
  · exact ⟨_, rfl, tick_finish_IR _ _, tick_finish_PC _ _, tick_finish_C _ _, tick_finish_P _ _, tick_finish_S _ _, tick_finish_emulation _ _, tick_finish_brk _ _⟩
  · exact ha

/-- Sub-cycle 2 of STA d with a 16-bit accumulator: B is written to the following address. -/
theorem sta_t2_a16 (c : w65816_t) (a d bank : Nat) (rw vpa vda : Bool)
    (hs : (vpa && vda) = false) (hIR : c.IR = 0x42A) (ha : _a8 c = false) :
    ∃ c1, w65816_tick c (qpins a d rw vpa vda bank).word =
        some (c1, (qpins ((a % 0x10000 + bank % 0x100 * 0x10000 + 1) % 0x100000000) (_B c) false false true bank).word) ∧
      c1.IR = 0x42B ∧ c1.PC = c.PC ∧ c1.C = c.C ∧
      c1.P = (if c.emulation ≠ 0 then (c.P ||| 0x20) % 256 else c.P) ∧
      c1.S = (if c.emulation ≠ 0 then 0x0100 ||| (c.S &&& 0xFF) else c.S) ∧
      c1.emulation = c.emulation ∧ c1.brk_flags = c.brk_flags := by
  rw [tick_step_op c a d bank rw vpa vda hs, hIR, decode_85_2,
    op85_2_word_a16, Option.map_some', tick_finish_pair]
  · exact ⟨_, rfl, tick_finish_IR _ _, tick_finish_PC _ _, tick_finish_C _ _, tick_finish_P _ _, tick_finish_S _ _, tick_finish_emulation _ _, tick_finish_brk _ _⟩
  · exact ha

theorem decode_85_3 (c : w65816_t) (p : Nat) :
    w65816_decode 0x42B c p = op_85 3 c p := by
  show decode_8 0x5 3 c p = _
  rfl

theorem op85_3_word (c : w65816_t) (f : PinF) :
    op_85 3 c f.word = some (c,
      ({ f with a := c.PC, vpa := true, vda := true } : PinF).word) := by
  simp only [op_85, FETCH_word]

/-- Sub-cycle 3 of STA d: the next opcode fetch is issued at PC. -/
theorem sta_t3 (c : w65816_t) (a d bank : Nat) (rw vpa vda : Bool)
    (hs : (vpa && vda) = false) (hIR : c.IR = 0x42B) :
    ∃ c1, w65816_tick c (qpins a d rw vpa vda bank).word =
        some (c1, (qpins c.PC d true true true bank).word) ∧
      c1.IR = 0x42C ∧ c1.PC = c.PC ∧ c1.C = c.C ∧
      c1.P = (if c.emulation ≠ 0 then (c.P ||| 0x20) % 256 else c.P) ∧
      c1.S = (if c.emulation ≠ 0 then 0x0100 ||| (c.S &&& 0xFF) else c.S) ∧
      c1.emulation = c.emulation ∧ c1.brk_flags = c.brk_flags := by
  rw [tick_step_op c a d bank rw vpa vda hs, hIR, decode_85_3,
    op85_3_word, Option.map_some', tick_finish_pair]
  exact ⟨_, rfl, tick_finish_IR _ _, tick_finish_PC _ _, tick_finish_C _ _, tick_finish_P _ _, tick_finish_S _ _, tick_finish_emulation _ _, tick_finish_brk _ _⟩

/-! ### PHP (0x08) -/

theorem decode_08_0 (c : w65816_t) (p : Nat) :
    w65816_decode 0x40 c p = op_08 0 c p := by
  show decode_0 0x8 0 c p = _
  rfl

theorem op08_0_word (c : w65816_t) (f : PinF) :
    op_08 0 c f.word = some (c,
      ({ f with a := c.PC } : PinF).word) := by
  simp only [op_08, SA_word]

/-- Sync tick of PHP: the opcode is decoded and PC is incremented. -/
theorem php_t0 (c : w65816_t) (a bank : Nat) (rw : Bool) (hb : c.brk_flags = 0)
    (hi : c.irq_pip = 0) (hn : c.nmi_pip = 0) :
    ∃ c1, w65816_tick c (qpins a 0x08 rw true true bank).word =
        some (c1, (qpins ((c.PC + 1) % 65536) 0x08 true false false bank).word) ∧
      c1.IR = 0x41 ∧ c1.PC = ((c.PC + 1) % 65536) ∧ c1.C = c.C ∧
      c1.P = (if c.emulation ≠ 0 then (c.P ||| 0x20) % 256 else c.P) ∧
      c1.S = (if c.emulation ≠ 0 then 0x0100 ||| (c.S &&& 0xFF) else c.S) ∧
      c1.emulation = c.emulation ∧ c1.brk_flags = 0 := by
  rw [tick_sync_op c a 0x08 bank rw hb hi hn]
  have e : ((0x08 % 256) <<< 3) % 65536 = 0x40 := by decide
  rw [e, decode_08_0, op08_0_word, Option.map_some', tick_finish_pair]
  exact ⟨_, rfl, tick_finish_IR _ _, tick_finish_PC _ _, tick_finish_C _ _, tick_finish_P _ _, tick_finish_S _ _, tick_finish_emulation _ _, tick_finish_brk _ _⟩

theorem decode_08_1 (c : w65816_t) (p : Nat) :
    w65816_decode 0x41 c p = op_08 1 c p := by
  show decode_0 0x8 1 c p = _
  rfl

theorem op08_1_word (c : w65816_t) (f : PinF) :
    op_08 1 c f.word = some (set_S c (_S c + 255),
      ({ f with a := 0x0100 ||| _S c, d := c.P ||| W65816_UF, rw := false, vda := true } : PinF).word) := by
  simp only [op_08, VDA_word, SAD_word, WR_word]

/-- Sub-cycle 1 of PHP: P with bit 5 set is written to the stack page and the low byte of S is
decremented. -/
theorem php_t1 (c : w65816_t) (a d bank : Nat) (rw vpa vda : Bool)
    (hs : (vpa && vda) = false) (hIR : c.IR = 0x41) :
    ∃ c1, w65816_tick c (qpins a d rw vpa vda bank).word =
        some (c1, (qpins (0x0100 ||| _S c) (c.P ||| W65816_UF) false false true bank).word) ∧
      c1.IR = 0x42 ∧ c1.PC = c.PC ∧ c1.C = c.C ∧
      c1.P = (if c.emulation ≠ 0 then (c.P ||| 0x20) % 256 else c.P) ∧
      c1.S = (if c.emulation ≠ 0 then 0x0100 ||| (((c.S &&& 0xFF00) ||| ((_S c + 255) &&& 0xFF)) &&& 0xFF) else ((c.S &&& 0xFF00) ||| ((_S c + 255) &&& 0xFF))) ∧
      c1.emulation = c.emulation ∧ c1.brk_flags = c.brk_flags := by
  rw [tick_step_op c a d bank rw vpa vda hs, hIR, decode_08_1,
    op08_1_word, Option.map_some', tick_finish_pair]
  exact ⟨_, rfl, tick_finish_IR _ _, tick_finish_PC _ _, tick_finish_C _ _, tick_finish_P _ _, tick_finish_S _ _, tick_finish_emulation _ _, tick_finish_brk _ _⟩

theorem decode_08_2 (c : w65816_t) (p : Nat) :
    w65816_decode 0x42 c p = op_08 2 c p := by
  show decode_0 0x8 2 c p = _
  rfl

theorem op08_2_word (c : w65816_t) (f : PinF) :
    op_08 2 c f.word = some (c,
      ({ f with a := c.PC, vpa := true, vda := true } : PinF).word) := by
  simp only [op_08, FETCH_word]

/-- Sub-cycle 2 of PHP: the next opcode fetch is issued at PC. -/
theorem php_t2 (c : w65816_t) (a d bank : Nat) (rw vpa vda : Bool)
    (hs : (vpa && vda) = false) (hIR : c.IR = 0x42) :
    ∃ c1, w65816_tick c (qpins a d rw vpa vda bank).word =
        some (c1, (qpins c.PC d true true true bank).word) ∧
      c1.IR = 0x43 ∧ c1.PC = c.PC ∧ c1.C = c.C ∧
      c1.P = (if c.emulation ≠ 0 then (c.P ||| 0x20) % 256 else c.P) ∧
      c1.S = (if c.emulation ≠ 0 then 0x0100 ||| (c.S &&& 0xFF) else c.S) ∧
      c1.emulation = c.emulation ∧ c1.brk_flags = c.brk_flags := by
  rw [tick_step_op c a d bank rw vpa vda hs, hIR, decode_08_2,
    op08_2_word, Option.map_some', tick_finish_pair]
  exact ⟨_, rfl, tick_finish_IR _ _, tick_finish_PC _ _, tick_finish_C _ _, tick_finish_P _ _, tick_finish_S _ _, tick_finish_emulation _ _, tick_finish_brk _ _⟩

/-! ### PLP (0x28) -/

theorem decode_28_0 (c : w65816_t) (p : Nat) :
    w65816_decode 0x140 c p = op_28 0 c p := by
  show decode_2 0x8 0 c p = _
  rfl

theorem op28_0_word (c : w65816_t) (f : PinF) :
    op_28 0 c f.word = some (c,
      ({ f with a := c.PC } : PinF).word) := by
  simp only [op_28, SA_word]

/-- Sync tick of PLP: the opcode is decoded and PC is incremented. -/
theorem plp_t0 (c : w65816_t) (a bank : Nat) (rw : Bool) (hb : c.brk_flags = 0)
    (hi : c.irq_pip = 0) (hn : c.nmi_pip = 0) :
    ∃ c1, w65816_tick c (qpins a 0x28 rw true true bank).word =
        some (c1, (qpins ((c.PC + 1) % 65536) 0x28 true false false bank).word) ∧
      c1.IR = 0x141 ∧ c1.PC = ((c.PC + 1) % 65536) ∧ c1.C = c.C ∧
      c1.P = (if c.emulation ≠ 0 then (c.P ||| 0x20) % 256 else c.P) ∧
      c1.S = (if c.emulation ≠ 0 then 0x0100 ||| (c.S &&& 0xFF) else c.S) ∧
      c1.emulation = c.emulation ∧ c1.brk_flags = 0 := by
  rw [tick_sync_op c a 0x28 bank rw hb hi hn]
  have e : ((0x28 % 256) <<< 3) % 65536 = 0x140 := by decide
  rw [e, decode_28_0, op28_0_word, Option.map_some', tick_finish_pair]
  exact ⟨_, rfl, tick_finish_IR _ _, tick_finish_PC _ _, tick_finish_C _ _, tick_finish_P _ _, tick_finish_S _ _, tick_finish_emulation _ _, tick_finish_brk _ _⟩

theorem decode_28_1 (c : w65816_t) (p : Nat) :
    w65816_decode 0x141 c p = op_28 1 c p := by
  show decode_2 0x8 1 c p = _
  rfl

theorem op28_1_word (c : w65816_t) (f : PinF) :
    op_28 1 c f.word = some (c,
      ({ f with a := c.PC } : PinF).word) := by
  simp only [op_28, SA_word]

/-- Sub-cycle 1 of PLP: an internal cycle addressing PC. -/
theorem plp_t1 (c : w65816_t) (a d bank : Nat) (rw vpa vda : Bool)
    (hs : (vpa && vda) = false) (hIR : c.IR = 0x141) :
    ∃ c1, w65816_tick c (qpins a d rw vpa vda bank).word =
        some (c1, (qpins c.PC d true false false bank).word) ∧
      c1.IR = 0x142 ∧ c1.PC = c.PC ∧ c1.C = c.C ∧
      c1.P = (if c.emulation ≠ 0 then (c.P ||| 0x20) % 256 else c.P) ∧
      c1.S = (if c.emulation ≠ 0 then 0x0100 ||| (c.S &&& 0xFF) else c.S) ∧
      c1.emulation = c.emulation ∧ c1.brk_flags = c.brk_flags := by
  rw [tick_step_op c a d bank rw vpa vda hs, hIR, decode_28_1,
    op28_1_word, Option.map_some', tick_finish_pair]
  exact ⟨_, rfl, tick_finish_IR _ _, tick_finish_PC _ _, tick_finish_C _ _, tick_finish_P _ _, tick_finish_S _ _, tick_finish_emulation _ _, tick_finish_brk _ _⟩

theorem decode_28_2 (c : w65816_t) (p : Nat) :
    w65816_decode 0x142 c p = op_28 2 c p := by
  show decode_2 0x8 2 c p = _
  rfl


theorem op28_2_word (c : w65816_t) (f : PinF) :
    op_28 2 c f.word = some (set_S c (_S c + 1),
      ({ f with a := 0x0100 ||| _S (set_S c (_S c + 1)), vda := true } : PinF).word) := by
  simp only [op_28, VDA_word, SA_word]

/-- Sub-cycle 2 of PLP: the low byte of S is incremented and the stack page is addressed. -/
theorem plp_t2 (c : w65816_t) (a d bank : Nat) (rw vpa vda : Bool)
    (hs : (vpa && vda) = false) (hIR : c.IR = 0x142) :
    ∃ c1, w65816_tick c (qpins a d rw vpa vda bank).word =
        some (c1, (qpins (0x0100 ||| _S (set_S c (_S c + 1))) d true false true bank).word) ∧
      c1.IR = 0x143 ∧ c1.PC = c.PC ∧ c1.C = c.C ∧
      c1.P = (if c.emulation ≠ 0 then (c.P ||| 0x20) % 256 else c.P) ∧
      c1.S = (if c.emulation ≠ 0 then 0x0100 ||| (((c.S &&& 0xFF00) ||| ((_S c + 1) &&& 0xFF)) &&& 0xFF) else ((c.S &&& 0xFF00) ||| ((_S c + 1) &&& 0xFF))) ∧
      c1.emulation = c.emulation ∧ c1.brk_flags = c.brk_flags := by
  rw [tick_step_op c a d bank rw vpa vda hs, hIR, decode_28_2,
    op28_2_word, Option.map_some', tick_finish_pair]
  exact ⟨_, rfl, tick_finish_IR _ _, tick_finish_PC _ _, tick_finish_C _ _, tick_finish_P _ _, tick_finish_S _ _, tick_finish_emulation _ _, tick_finish_brk _ _⟩

theorem decode_28_3 (c : w65816_t) (p : Nat) :
    w65816_decode 0x143 c p = op_28 3 c p := by
  show decode_2 0x8 3 c p = _
  rfl

theorem op28_3_word (c : w65816_t) (f : PinF) :
    op_28 3 c f.word = some ({ c with P := ((f.d % 256 ||| W65816_BF) &&& NOT32 W65816_UF) % 256 },
      ({ f with a := c.PC, vpa := true, vda := true } : PinF).word) := by
  simp only [op_28, GD_word, FETCH_word]

/-- Sub-cycle 3 of PLP: P is loaded from the data bus with bit 4 set and bit 5 cleared, and the
next opcode fetch is issued. -/
theorem plp_t3 (c : w65816_t) (a d bank : Nat) (rw vpa vda : Bool)
    (hs : (vpa && vda) = false) (hIR : c.IR = 0x143) :
    ∃ c1, w65816_tick c (qpins a d rw vpa vda bank).word =
        some (c1, (qpins c.PC d true true true bank).word) ∧
      c1.IR = 0x144 ∧ c1.PC = c.PC ∧ c1.C = c.C ∧
      c1.P = (if c.emulation ≠ 0 then (((d % 256 ||| W65816_BF) &&& NOT32 W65816_UF) % 256 ||| 0x20) % 256 else ((d % 256 ||| W65816_BF) &&& NOT32 W65816_UF) % 256) ∧
      c1.S = (if c.emulation ≠ 0 then 0x0100 ||| (c.S &&& 0xFF) else c.S) ∧
      c1.emulation = c.emulation ∧ c1.brk_flags = c.brk_flags := by
  rw [tick_step_op c a d bank rw vpa vda hs, hIR, decode_28_3,
    op28_3_word, Option.map_some', tick_finish_pair]
  exact ⟨_, rfl, tick_finish_IR _ _, tick_finish_PC _ _, tick_finish_C _ _, tick_finish_P _ _, tick_finish_S _ _, tick_finish_emulation _ _, tick_finish_brk _ _⟩

/-! ### PHA (0x48) -/

theorem decode_48_0 (c : w65816_t) (p : Nat) :
    w65816_decode 0x240 c p = op_48 0 c p := by
  show decode_4 0x8 0 c p = _
  rfl

theorem op48_0_word (c : w65816_t) (f : PinF) :
    op_48 0 c f.word = some (c,
      ({ f with a := c.PC } : PinF).word) := by
  simp only [op_48, SA_word]

/-- Sync tick of PHA: the opcode is decoded and PC is incremented. -/
theorem pha_t0 (c : w65816_t) (a bank : Nat) (rw : Bool) (hb : c.brk_flags = 0)
    (hi : c.irq_pip = 0) (hn : c.nmi_pip = 0) :
    ∃ c1, w65816_tick c (qpins a 0x48 rw true true bank).word =
        some (c1, (qpins ((c.PC + 1) % 65536) 0x48 true false false bank).word) ∧
      c1.IR = 0x241 ∧ c1.PC = ((c.PC + 1) % 65536) ∧ c1.C = c.C ∧
      c1.P = (if c.emulation ≠ 0 then (c.P ||| 0x20) % 256 else c.P) ∧
      c1.S = (if c.emulation ≠ 0 then 0x0100 ||| (c.S &&& 0xFF) else c.S) ∧
      c1.emulation = c.emulation ∧ c1.brk_flags = 0 := by
  rw [tick_sync_op c a 0x48 bank rw hb hi hn]
  have e : ((0x48 % 256) <<< 3) % 65536 = 0x240 := by decide
  rw [e, decode_48_0, op48_0_word, Option.map_some', tick_finish_pair]
  exact ⟨_, rfl, tick_finish_IR _ _, tick_finish_PC _ _, tick_finish_C _ _, tick_finish_P _ _, tick_finish_S _ _, tick_finish_emulation _ _, tick_finish_brk _ _⟩

theorem decode_48_1 (c : w65816_t) (p : Nat) :
    w65816_decode 0x241 c p = op_48 1 c p := by
  show decode_4 0x8 1 c p = _
  rfl

theorem op48_1_word (c : w65816_t) (f : PinF) :
    op_48 1 c f.word = some (set_S c (_S c + 255),
      ({ f with a := 0x0100 ||| _S c, d := _A c, rw := false, vda := true } : PinF).word) := by
  simp only [op_48, VDA_word, SAD_word, WR_word]

/-- Sub-cycle 1 of PHA: A is written to the stack page and the low byte of S is
decremented. -/
theorem pha_t1 (c : w65816_t) (a d bank : Nat) (rw vpa vda : Bool)
    (hs : (vpa && vda) = false) (hIR : c.IR = 0x241) :
    ∃ c1, w65816_tick c (qpins a d rw vpa vda bank).word =
        some (c1, (qpins (0x0100 ||| _S c) (_A c) false false true bank).word) ∧
      c1.IR = 0x242 ∧ c1.PC = c.PC ∧ c1.C = c.C ∧
      c1.P = (if c.emulation ≠ 0 then (c.P ||| 0x20) % 256 else c.P) ∧
      c1.S = (if c.emulation ≠ 0 then 0x0100 ||| (((c.S &&& 0xFF00) ||| ((_S c + 255) &&& 0xFF)) &&& 0xFF) else ((c.S &&& 0xFF00) ||| ((_S c + 255) &&& 0xFF))) ∧
      c1.emulation = c.emulation ∧ c1.brk_flags = c.brk_flags := by
  rw [tick_step_op c a d bank rw vpa vda hs, hIR, decode_48_1,
    op48_1_word, Option.map_some', tick_finish_pair]
  exact ⟨_, rfl, tick_finish_IR _ _, tick_finish_PC _ _, tick_finish_C _ _, tick_finish_P _ _, tick_finish_S _ _, tick_finish_emulation _ _, tick_finish_brk _ _⟩

theorem decode_48_2 (c : w65816_t) (p : Nat) :
    w65816_decode 0x242 c p = op_48 2 c p := by
  show decode_4 0x8 2 c p = _
  rfl

theorem op48_2_word (c : w65816_t) (f : PinF) :
    op_48 2 c f.word = some (c,
      ({ f with a := c.PC, vpa := true, vda := true } : PinF).word) := by
  simp only [op_48, FETCH_word]

/-- Sub-cycle 2 of PHA: the next opcode fetch is issued at PC. -/
theorem pha_t2 (c : w65816_t) (a d bank : Nat) (rw vpa vda : Bool)
    (hs : (vpa && vda) = false) (hIR : c.IR = 0x242) :
    ∃ c1, w65816_tick c (qpins a d rw vpa vda bank).word =
        some (c1, (qpins c.PC d true true true bank).word) ∧
      c1.IR = 0x243 ∧ c1.PC = c.PC ∧ c1.C = c.C ∧
      c1.P = (if c.emulation ≠ 0 then (c.P ||| 0x20) % 256 else c.P) ∧
      c1.S = (if c.emulation ≠ 0 then 0x0100 ||| (c.S &&& 0xFF) else c.S) ∧
      c1.emulation = c.emulation ∧ c1.brk_flags = c.brk_flags := by
  rw [tick_step_op c a d bank rw vpa vda hs, hIR, decode_48_2,
    op48_2_word, Option.map_some', tick_finish_pair]
  exact ⟨_, rfl, tick_finish_IR _ _, tick_finish_PC _ _, tick_finish_C _ _, tick_finish_P _ _, tick_finish_S _ _, tick_finish_emulation _ _, tick_finish_brk _ _⟩

/-! ### PLA (0x68) -/

theorem decode_68_0 (c : w65816_t) (p : Nat) :
    w65816_decode 0x340 c p = op_68 0 c p := by
  show decode_6 0x8 0 c p = _
  rfl

theorem op68_0_word (c : w65816_t) (f : PinF) :
    op_68 0 c f.word = some (c,
      ({ f with a := c.PC } : PinF).word) := by
  simp only [op_68, SA_word]

/-- Sync tick of PLA: the opcode is decoded and PC is incremented. -/
theorem pla_t0 (c : w65816_t) (a bank : Nat) (rw : Bool) (hb : c.brk_flags = 0)
    (hi : c.irq_pip = 0) (hn : c.nmi_pip = 0) :
    ∃ c1, w65816_tick c (qpins a 0x68 rw true true bank).word =
        some (c1, (qpins ((c.PC + 1) % 65536) 0x68 true false false bank).word) ∧
      c1.IR = 0x341 ∧ c1.PC = ((c.PC + 1) % 65536) ∧ c1.C = c.C ∧
      c1.P = (if c.emulation ≠ 0 then (c.P ||| 0x20) % 256 else c.P) ∧
      c1.S = (if c.emulation ≠ 0 then 0x0100 ||| (c.S &&& 0xFF) else c.S) ∧
      c1.emulation = c.emulation ∧ c1.brk_flags = 0 := by
  rw [tick_sync_op c a 0x68 bank rw hb hi hn]
  have e : ((0x68 % 256) <<< 3) % 65536 = 0x340 := by decide
  rw [e, decode_68_0, op68_0_word, Option.map_some', tick_finish_pair]
  exact ⟨_, rfl, tick_finish_IR _ _, tick_finish_PC _ _, tick_finish_C _ _, tick_finish_P _ _, tick_finish_S _ _, tick_finish_emulation _ _, tick_finish_brk _ _⟩

theorem decode_68_1 (c : w65816_t) (p : Nat) :
    w65816_decode 0x341 c p = op_68 1 c p := by
  show decode_6 0x8 1 c p = _
  rfl

theorem op68_1_word (c : w65816_t) (f : PinF) :
    op_68 1 c f.word = some (c,
      ({ f with a := c.PC } : PinF).word) := by
  simp only [op_68, SA_word]

/-- Sub-cycle 1 of PLA: an internal cycle addressing PC. -/
theorem pla_t1 (c : w65816_t) (a d bank : Nat) (rw vpa vda : Bool)
    (hs : (vpa && vda) = false) (hIR : c.IR = 0x341) :
    ∃ c1, w65816_tick c (qpins a d rw vpa vda bank).word =
        some (c1, (qpins c.PC d true false false bank).word) ∧
      c1.IR = 0x342 ∧ c1.PC = c.PC ∧ c1.C = c.C ∧
      c1.P = (if c.emulation ≠ 0 then (c.P ||| 0x20) % 256 else c.P) ∧
      c1.S = (if c.emulation ≠ 0 then 0x0100 ||| (c.S &&& 0xFF) else c.S) ∧
      c1.emulation = c.emulation ∧ c1.brk_flags = c.brk_flags := by
  rw [tick_step_op c a d bank rw vpa vda hs, hIR, decode_68_1,
    op68_1_word, Option.map_some', tick_finish_pair]
  exact ⟨_, rfl, tick_finish_IR _ _, tick_finish_PC _ _, tick_finish_C _ _, tick_finish_P _ _, tick_finish_S _ _, tick_finish_emulation _ _, tick_finish_brk _ _⟩

theorem decode_68_2 (c : w65816_t) (p : Nat) :
    w65816_decode 0x342 c p = op_68 2 c p := by
  show decode_6 0x8 2 c p = _
  rfl


theorem op68_2_word (c : w65816_t) (f : PinF) :
    op_68 2 c f.word = some (set_S c (_S c + 1),
      ({ f with a := 0x0100 ||| _S (set_S c (_S c + 1)), vda := true } : PinF).word) := by
  simp only [op_68, VDA_word, SA_word]

/-- Sub-cycle 2 of PLA: the low byte of S is incremented and the stack page is addressed. -/
theorem pla_t2 (c : w65816_t) (a d bank : Nat) (rw vpa vda : Bool)
    (hs : (vpa && vda) = false) (hIR : c.IR = 0x342) :
    ∃ c1, w65816_tick c (qpins a d rw vpa vda bank).word =
        some (c1, (qpins (0x0100 ||| _S (set_S c (_S c + 1))) d true false true bank).word) ∧
      c1.IR = 0x343 ∧ c1.PC = c.PC ∧ c1.C = c.C ∧
      c1.P = (if c.emulation ≠ 0 then (c.P ||| 0x20) % 256 else c.P) ∧
      c1.S = (if c.emulation ≠ 0 then 0x0100 ||| (((c.S &&& 0xFF00) ||| ((_S c + 1) &&& 0xFF)) &&& 0xFF) else ((c.S &&& 0xFF00) ||| ((_S c + 1) &&& 0xFF))) ∧
      c1.emulation = c.emulation ∧ c1.brk_flags = c.brk_flags := by
  rw [tick_step_op c a d bank rw vpa vda hs, hIR, decode_68_2,
    op68_2_word, Option.map_some', tick_finish_pair]
  exact ⟨_, rfl, tick_finish_IR _ _, tick_finish_PC _ _, tick_finish_C _ _, tick_finish_P _ _, tick_finish_S _ _, tick_finish_emulation _ _, tick_finish_brk _ _⟩

theorem decode_68_3 (c : w65816_t) (p : Nat) :
    w65816_decode 0x343 c p = op_68 3 c p := by
  show decode_6 0x8 3 c p = _
  rfl

theorem op68_3_word (c : w65816_t) (f : PinF) :
    op_68 3 c f.word = some (_NZ (set_A c (f.d % 256)) (_A (set_A c (f.d % 256))),
      ({ f with a := c.PC, vpa := true, vda := true } : PinF).word) := by
  simp only [op_68, GD_word, FETCH_word, NZ_PC, set_A_PC]

/-- Sub-cycle 3 of PLA: A is loaded from the data bus, N and Z are set and the next opcode fetch
is issued. -/
theorem pla_t3 (c : w65816_t) (a d bank : Nat) (rw vpa vda : Bool)
    (hs : (vpa && vda) = false) (hIR : c.IR = 0x343) :
    ∃ c1, w65816_tick c (qpins a d rw vpa vda bank).word =
        some (c1, (qpins c.PC d true true true bank).word) ∧
      c1.IR = 0x344 ∧ c1.PC = c.PC ∧ c1.C = (c.C &&& 0xFF00) ||| (d % 256 &&& 0xFF) ∧
      c1.P = (if c.emulation ≠ 0 then ((_NZ (set_A c (d % 256)) (_A (set_A c (d % 256)))).P ||| 0x20) % 256 else (_NZ (set_A c (d % 256)) (_A (set_A c (d % 256)))).P) ∧
      c1.S = (if c.emulation ≠ 0 then 0x0100 ||| (c.S &&& 0xFF) else c.S) ∧
      c1.emulation = c.emulation ∧ c1.brk_flags = c.brk_flags := by
  rw [tick_step_op c a d bank rw vpa vda hs, hIR, decode_68_3,
    op68_3_word, Option.map_some', tick_finish_pair]
  exact ⟨_, rfl, tick_finish_IR _ _, tick_finish_PC _ _, tick_finish_C _ _, tick_finish_P _ _, tick_finish_S _ _, tick_finish_emulation _ _, tick_finish_brk _ _⟩

/-! ### BPL (0x10) -/

theorem decode_10_0 (c : w65816_t) (p : Nat) :
    w65816_decode 0x80 c p = op_10 0 c p := by
  show decode_1 0x0 0 c p = _
  rfl

theorem op10_0_word (c : w65816_t) (f : PinF) :
    op_10 0 c f.word = some ({ c with PC := (c.PC + 1) % 65536 },
      ({ f with a := c.PC, vpa := true } : PinF).word) := by
  simp only [op_10, VPA_word, SA_word]

/-- Sync tick of BPL: the offset byte after the opcode is addressed with VPA. -/
theorem bpl_t0 (c : w65816_t) (a bank : Nat) (rw : Bool) (hb : c.brk_flags = 0)
    (hi : c.irq_pip = 0) (hn : c.nmi_pip = 0) :
    ∃ c1, w65816_tick c (qpins a 0x10 rw true true bank).word =
        some (c1, (qpins ((c.PC + 1) % 65536) 0x10 true true false bank).word) ∧
      c1.IR = 0x81 ∧ c1.PC = ((c.PC + 1) % 65536 + 1) % 65536 ∧ c1.C = c.C ∧
      c1.P = (if c.emulation ≠ 0 then (c.P ||| 0x20) % 256 else c.P) ∧
      c1.S = (if c.emulation ≠ 0 then 0x0100 ||| (c.S &&& 0xFF) else c.S) ∧
      c1.emulation = c.emulation ∧ c1.brk_flags = 0 ∧ c1.AD = c.AD := by
  rw [tick_sync_op c a 0x10 bank rw hb hi hn]
  have e : ((0x10 % 256) <<< 3) % 65536 = 0x80 := by decide
  rw [e, decode_10_0, op10_0_word, Option.map_some', tick_finish_pair]
  exact ⟨_, rfl, tick_finish_IR _ _, tick_finish_PC _ _, tick_finish_C _ _, tick_finish_P _ _, tick_finish_S _ _, tick_finish_emulation _ _, tick_finish_brk _ _, tick_finish_AD _ _⟩

theorem decode_10_1 (c : w65816_t) (p : Nat) :
    w65816_decode 0x81 c p = op_10 1 c p := by
  show decode_1 0x0 1 c p = _
  rfl

theorem op10_1_word_nt (c : w65816_t) (f : PinF) (hP : c.P &&& 0x80 ≠ 0x0) :
    op_10 1 c f.word = some ({ c with AD := (c.PC + SEXT8 (f.d % 256)) % 65536 },
      ({ f with a := c.PC, vpa := true, vda := true } : PinF).word) := by
  simp only [op_10, GD_word, SA_word]
  rw [if_pos hP]
  simp only [FETCH_word]

theorem op10_1_word_tk (c : w65816_t) (f : PinF) (hP : c.P &&& 0x80 = 0x0) :
    op_10 1 c f.word = some ({ c with AD := (c.PC + SEXT8 (f.d % 256)) % 65536 },
      ({ f with a := c.PC } : PinF).word) := by
  simp only [op_10, GD_word, SA_word]
  rw [if_neg (not_not.2 hP)]

/-- Sub-cycle 1 of BPL, branch not taken: the next opcode fetch is issued at PC. -/
theorem bpl_t1_nt (c : w65816_t) (a d bank : Nat) (rw vpa vda : Bool)
    (hs : (vpa && vda) = false) (hIR : c.IR = 0x81) (hP : c.P &&& 0x80 ≠ 0x0) :
    ∃ c1, w65816_tick c (qpins a d rw vpa vda bank).word =
        some (c1, (qpins c.PC d true true true bank).word) ∧
      c1.IR = 0x82 ∧ c1.PC = c.PC ∧ c1.C = c.C ∧
      c1.P = (if c.emulation ≠ 0 then (c.P ||| 0x20) % 256 else c.P) ∧
      c1.S = (if c.emulation ≠ 0 then 0x0100 ||| (c.S &&& 0xFF) else c.S) ∧
      c1.emulation = c.emulation ∧ c1.brk_flags = c.brk_flags ∧
      c1.AD = (c.PC + SEXT8 (d % 256)) % 65536 := by
  rw [tick_step_op c a d bank rw vpa vda hs, hIR, decode_10_1,
    op10_1_word_nt, Option.map_some', tick_finish_pair]
  · exact ⟨_, rfl, tick_finish_IR _ _, tick_finish_PC _ _, tick_finish_C _ _, tick_finish_P _ _, tick_finish_S _ _, tick_finish_emulation _ _, tick_finish_brk _ _, tick_finish_AD _ _⟩
  · exact hP

/-- Sub-cycle 1 of BPL, branch taken: the target PC + offset is computed into AD. -/
theorem bpl_t1_tk (c : w65816_t) (a d bank : Nat) (rw vpa vda : Bool)
    (hs : (vpa && vda) = false) (hIR : c.IR = 0x81) (hP : c.P &&& 0x80 = 0x0) :
    ∃ c1, w65816_tick c (qpins a d rw vpa vda bank).word =
        some (c1, (qpins c.PC d true false false bank).word) ∧
      c1.IR = 0x82 ∧ c1.PC = c.PC ∧ c1.C = c.C ∧
      c1.P = (if c.emulation ≠ 0 then (c.P ||| 0x20) % 256 else c.P) ∧
      c1.S = (if c.emulation ≠ 0 then 0x0100 ||| (c.S &&& 0xFF) else c.S) ∧
      c1.emulation = c.emulation ∧ c1.brk_flags = c.brk_flags ∧
      c1.AD = (c.PC + SEXT8 (d % 256)) % 65536 := by
  rw [tick_step_op c a d bank rw vpa vda hs, hIR, decode_10_1,
    op10_1_word_tk, Option.map_some', tick_finish_pair]
  · exact ⟨_, rfl, tick_finish_IR _ _, tick_finish_PC _ _, tick_finish_C _ _, tick_finish_P _ _, tick_finish_S _ _, tick_finish_emulation _ _, tick_finish_brk _ _, tick_finish_AD _ _⟩
  · exact hP

theorem decode_10_2 (c : w65816_t) (p : Nat) :
    w65816_decode 0x82 c p = op_10 2 c p := by
  show decode_1 0x0 2 c p = _
  rfl

theorem op10_2_word_same (c : w65816_t) (f : PinF)
    (hpg : c.AD &&& 0xFF00 = c.PC &&& 0xFF00) :
    op_10 2 c f.word =
      some ({ c with PC := c.AD, irq_pip := c.irq_pip >>> 1, nmi_pip := c.nmi_pip >>> 1 },
      ({ f with a := c.AD, vpa := true, vda := true } : PinF).word) := by
  simp only [op_10, SA_word]
  rw [if_pos hpg]
  simp only [FETCH_word]

theorem op10_2_word_cross (c : w65816_t) (f : PinF)
    (hpg : c.AD &&& 0xFF00 ≠ c.PC &&& 0xFF00) :
    op_10 2 c f.word = some (c,
      ({ f with a := (c.PC &&& 0xFF00) ||| (c.AD &&& 0x00FF) } : PinF).word) := by
  simp only [op_10, SA_word]
  rw [if_neg hpg]

/-- Sub-cycle 2 of BPL, target in the page of PC: PC becomes AD and the next opcode fetch is
issued. -/
theorem bpl_t2_same (c : w65816_t) (a d bank : Nat) (rw vpa vda : Bool)
    (hs : (vpa && vda) = false) (hIR : c.IR = 0x82) (hpg : c.AD &&& 0xFF00 = c.PC &&& 0xFF00) :
    ∃ c1, w65816_tick c (qpins a d rw vpa vda bank).word =
        some (c1, (qpins c.AD d true true true bank).word) ∧
      c1.IR = 0x83 ∧ c1.PC = c.AD ∧ c1.C = c.C ∧
      c1.P = (if c.emulation ≠ 0 then (c.P ||| 0x20) % 256 else c.P) ∧
      c1.S = (if c.emulation ≠ 0 then 0x0100 ||| (c.S &&& 0xFF) else c.S) ∧
      c1.emulation = c.emulation ∧ c1.brk_flags = c.brk_flags ∧ c1.AD = c.AD := by
  rw [tick_step_op c a d bank rw vpa vda hs, hIR, decode_10_2,
    op10_2_word_same, Option.map_some', tick_finish_pair]
  · exact ⟨_, rfl, tick_finish_IR _ _, tick_finish_PC _ _, tick_finish_C _ _, tick_finish_P _ _, tick_finish_S _ _, tick_finish_emulation _ _, tick_finish_brk _ _, tick_finish_AD _ _⟩
  · exact hpg

/-- Sub-cycle 2 of BPL, target in another page: one more cycle is spent. -/
theorem bpl_t2_cross (c : w65816_t) (a d bank : Nat) (rw vpa vda : Bool)
    (hs : (vpa && vda) = false) (hIR : c.IR = 0x82) (hpg : c.AD &&& 0xFF00 ≠ c.PC &&& 0xFF00) :
    ∃ c1, w65816_tick c (qpins a d rw vpa vda bank).word =
        some (c1, (qpins ((c.PC &&& 0xFF00) ||| (c.AD &&& 0x00FF)) d true false false bank).word) ∧
      c1.IR = 0x83 ∧ c1.PC = c.PC ∧ c1.C = c.C ∧
      c1.P = (if c.emulation ≠ 0 then (c.P ||| 0x20) % 256 else c.P) ∧
      c1.S = (if c.emulation ≠ 0 then 0x0100 ||| (c.S &&& 0xFF) else c.S) ∧
      c1.emulation = c.emulation ∧ c1.brk_flags = c.brk_flags ∧ c1.AD = c.AD := by
  rw [tick_step_op c a d bank rw vpa vda hs, hIR, decode_10_2,
    op10_2_word_cross, Option.map_some', tick_finish_pair]
  · exact ⟨_, rfl, tick_finish_IR _ _, tick_finish_PC _ _, tick_finish_C _ _, tick_finish_P _ _, tick_finish_S _ _, tick_finish_emulation _ _, tick_finish_brk _ _, tick_finish_AD _ _⟩
  · exact hpg

theorem decode_10_3 (c : w65816_t) (p : Nat) :
    w65816_decode 0x83 c p = op_10 3 c p := by
  show decode_1 0x0 3 c p = _
  rfl

theorem op10_3_word (c : w65816_t) (f : PinF) :
    op_10 3 c f.word = some ({ c with PC := c.AD },
      ({ f with a := c.AD, vpa := true, vda := true } : PinF).word) := by
  simp only [op_10, FETCH_word]

/-- Sub-cycle 3 of BPL: PC becomes AD and the next opcode fetch is issued. -/
theorem bpl_t3 (c : w65816_t) (a d bank : Nat) (rw vpa vda : Bool)
    (hs : (vpa && vda) = false) (hIR : c.IR = 0x83) :
    ∃ c1, w65816_tick c (qpins a d rw vpa vda bank).word =
        some (c1, (qpins c.AD d true true true bank).word) ∧
      c1.IR = 0x84 ∧ c1.PC = c.AD ∧ c1.C = c.C ∧
      c1.P = (if c.emulation ≠ 0 then (c.P ||| 0x20) % 256 else c.P) ∧
      c1.S = (if c.emulation ≠ 0 then 0x0100 ||| (c.S &&& 0xFF) else c.S) ∧
      c1.emulation = c.emulation ∧ c1.brk_flags = c.brk_flags ∧ c1.AD = c.AD := by
  rw [tick_step_op c a d bank rw vpa vda hs, hIR, decode_10_3,
    op10_3_word, Option.map_some', tick_finish_pair]
  exact ⟨_, rfl, tick_finish_IR _ _, tick_finish_PC _ _, tick_finish_C _ _, tick_finish_P _ _, tick_finish_S _ _, tick_finish_emulation _ _, tick_finish_brk _ _, tick_finish_AD _ _⟩

/-! ### BMI (0x30) -/

theorem decode_30_0 (c : w65816_t) (p : Nat) :
    w65816_decode 0x180 c p = op_30 0 c p := by
  show decode_3 0x0 0 c p = _
  rfl

theorem op30_0_word (c : w65816_t) (f : PinF) :
    op_30 0 c f.word = some ({ c with PC := (c.PC + 1) % 65536 },
      ({ f with a := c.PC, vpa := true } : PinF).word) := by
  simp only [op_30, VPA_word, SA_word]

/-- Sync tick of BMI: the offset byte after the opcode is addressed with VPA. -/
theorem bmi_t0 (c : w65816_t) (a bank : Nat) (rw : Bool) (hb : c.brk_flags = 0)
    (hi : c.irq_pip = 0) (hn : c.nmi_pip = 0) :
    ∃ c1, w65816_tick c (qpins a 0x30 rw true true bank).word =
        some (c1, (qpins ((c.PC + 1) % 65536) 0x30 true true false bank).word) ∧
      c1.IR = 0x181 ∧ c1.PC = ((c.PC + 1) % 65536 + 1) % 65536 ∧ c1.C = c.C ∧
      c1.P = (if c.emulation ≠ 0 then (c.P ||| 0x20) % 256 else c.P) ∧
      c1.S = (if c.emulation ≠ 0 then 0x0100 ||| (c.S &&& 0xFF) else c.S) ∧
      c1.emulation = c.emulation ∧ c1.brk_flags = 0 ∧ c1.AD = c.AD := by
  rw [tick_sync_op c a 0x30 bank rw hb hi hn]
  have e : ((0x30 % 256) <<< 3) % 65536 = 0x180 := by decide
  rw [e, decode_30_0, op30_0_word, Option.map_some', tick_finish_pair]
  exact ⟨_, rfl, tick_finish_IR _ _, tick_finish_PC _ _, tick_finish_C _ _, tick_finish_P _ _, tick_finish_S _ _, tick_finish_emulation _ _, tick_finish_brk _ _, tick_finish_AD _ _⟩

theorem decode_30_1 (c : w65816_t) (p : Nat) :
    w65816_decode 0x181 c p = op_30 1 c p := by
  show decode_3 0x0 1 c p = _
  rfl

theorem op30_1_word_nt (c : w65816_t) (f : PinF) (hP : c.P &&& 0x80 ≠ 0x80) :
    op_30 1 c f.word = some ({ c with AD := (c.PC + SEXT8 (f.d % 256)) % 65536 },
      ({ f with a := c.PC, vpa := true, vda := true } : PinF).word) := by
  simp only [op_30, GD_word, SA_word]
  rw [if_pos hP]
  simp only [FETCH_word]

theorem op30_1_word_tk (c : w65816_t) (f : PinF) (hP : c.P &&& 0x80 = 0x80) :
    op_30 1 c f.word = some ({ c with AD := (c.PC + SEXT8 (f.d % 256)) % 65536 },
      ({ f with a := c.PC } : PinF).word) := by
  simp only [op_30, GD_word, SA_word]
  rw [if_neg (not_not.2 hP)]

/-- Sub-cycle 1 of BMI, branch not taken: the next opcode fetch is issued at PC. -/
theorem bmi_t1_nt (c : w65816_t) (a d bank : Nat) (rw vpa vda : Bool)
    (hs : (vpa && vda) = false) (hIR : c.IR = 0x181) (hP : c.P &&& 0x80 ≠ 0x80) :
    ∃ c1, w65816_tick c (qpins a d rw vpa vda bank).word =
        some (c1, (qpins c.PC d true true true bank).word) ∧
      c1.IR = 0x182 ∧ c1.PC = c.PC ∧ c1.C = c.C ∧
      c1.P = (if c.emulation ≠ 0 then (c.P ||| 0x20) % 256 else c.P) ∧
      c1.S = (if c.emulation ≠ 0 then 0x0100 ||| (c.S &&& 0xFF) else c.S) ∧
      c1.emulation = c.emulation ∧ c1.brk_flags = c.brk_flags ∧
      c1.AD = (c.PC + SEXT8 (d % 256)) % 65536 := by
  rw [tick_step_op c a d bank rw vpa vda hs, hIR, decode_30_1,
    op30_1_word_nt, Option.map_some', tick_finish_pair]
  · exact ⟨_, rfl, tick_finish_IR _ _, tick_finish_PC _ _, tick_finish_C _ _, tick_finish_P _ _, tick_finish_S _ _, tick_finish_emulation _ _, tick_finish_brk _ _, tick_finish_AD _ _⟩
  · exact hP

/-- Sub-cycle 1 of BMI, branch taken: the target PC + offset is computed into AD. -/
theorem bmi_t1_tk (c : w65816_t) (a d bank : Nat) (rw vpa vda : Bool)
    (hs : (vpa && vda) = false) (hIR : c.IR = 0x181) (hP : c.P &&& 0x80 = 0x80) :
    ∃ c1, w65816_tick c (qpins a d rw vpa vda bank).word =
        some (c1, (qpins c.PC d true false false bank).word) ∧
      c1.IR = 0x182 ∧ c1.PC = c.PC ∧ c1.C = c.C ∧
      c1.P = (if c.emulation ≠ 0 then (c.P ||| 0x20) % 256 else c.P) ∧
      c1.S = (if c.emulation ≠ 0 then 0x0100 ||| (c.S &&& 0xFF) else c.S) ∧
      c1.emulation = c.emulation ∧ c1.brk_flags = c.brk_flags ∧
      c1.AD = (c.PC + SEXT8 (d % 256)) % 65536 := by
  rw [tick_step_op c a d bank rw vpa vda hs, hIR, decode_30_1,
    op30_1_word_tk, Option.map_some', tick_finish_pair]
  · exact ⟨_, rfl, tick_finish_IR _ _, tick_finish_PC _ _, tick_finish_C _ _, tick_finish_P _ _, tick_finish_S _ _, tick_finish_emulation _ _, tick_finish_brk _ _, tick_finish_AD _ _⟩
  · exact hP

theorem decode_30_2 (c : w65816_t) (p : Nat) :
    w65816_decode 0x182 c p = op_30 2 c p := by
  show decode_3 0x0 2 c p = _
  rfl

theorem op30_2_word_same (c : w65816_t) (f : PinF)
    (hpg : c.AD &&& 0xFF00 = c.PC &&& 0xFF00) :
    op_30 2 c f.word =
      some ({ c with PC := c.AD, irq_pip := c.irq_pip >>> 1, nmi_pip := c.nmi_pip >>> 1 },
      ({ f with a := c.AD, vpa := true, vda := true } : PinF).word) := by
  simp only [op_30, SA_word]
  rw [if_pos hpg]
  simp only [FETCH_word]

theorem op30_2_word_cross (c : w65816_t) (f : PinF)
    (hpg : c.AD &&& 0xFF00 ≠ c.PC &&& 0xFF00) :
    op_30 2 c f.word = some (c,
      ({ f with a := (c.PC &&& 0xFF00) ||| (c.AD &&& 0x00FF) } : PinF).word) := by
  simp only [op_30, SA_word]
  rw [if_neg hpg]

/-- Sub-cycle 2 of BMI, target in the page of PC: PC becomes AD and the next opcode fetch is
issued. -/
theorem bmi_t2_same (c : w65816_t) (a d bank : Nat) (rw vpa vda : Bool)
    (hs : (vpa && vda) = false) (hIR : c.IR = 0x182) (hpg : c.AD &&& 0xFF00 = c.PC &&& 0xFF00) :
    ∃ c1, w65816_tick c (qpins a d rw vpa vda bank).word =
        some (c1, (qpins c.AD d true true true bank).word) ∧
      c1.IR = 0x183 ∧ c1.PC = c.AD ∧ c1.C = c.C ∧
      c1.P = (if c.emulation ≠ 0 then (c.P ||| 0x20) % 256 else c.P) ∧
      c1.S = (if c.emulation ≠ 0 then 0x0100 ||| (c.S &&& 0xFF) else c.S) ∧
      c1.emulation = c.emulation ∧ c1.brk_flags = c.brk_flags ∧ c1.AD = c.AD := by
  rw [tick_step_op c a d bank rw vpa vda hs, hIR, decode_30_2,
    op30_2_word_same, Option.map_some', tick_finish_pair]
  · exact ⟨_, rfl, tick_finish_IR _ _, tick_finish_PC _ _, tick_finish_C _ _, tick_finish_P _ _, tick_finish_S _ _, tick_finish_emulation _ _, tick_finish_brk _ _, tick_finish_AD _ _⟩
  · exact hpg

/-- Sub-cycle 2 of BMI, target in another page: one more cycle is spent. -/
theorem bmi_t2_cross (c : w65816_t) (a d bank : Nat) (rw vpa vda : Bool)
    (hs : (vpa && vda) = false) (hIR : c.IR = 0x182) (hpg : c.AD &&& 0xFF00 ≠ c.PC &&& 0xFF00) :
    ∃ c1, w65816_tick c (qpins a d rw vpa vda bank).word =
        some (c1, (qpins ((c.PC &&& 0xFF00) ||| (c.AD &&& 0x00FF)) d true false false bank).word) ∧
      c1.IR = 0x183 ∧ c1.PC = c.PC ∧ c1.C = c.C ∧
      c1.P = (if c.emulation ≠ 0 then (c.P ||| 0x20) % 256 else c.P) ∧
      c1.S = (if c.emulation ≠ 0 then 0x0100 ||| (c.S &&& 0xFF) else c.S) ∧
      c1.emulation = c.emulation ∧ c1.brk_flags = c.brk_flags ∧ c1.AD = c.AD := by
  rw [tick_step_op c a d bank rw vpa vda hs, hIR, decode_30_2,
    op30_2_word_cross, Option.map_some', tick_finish_pair]
  · exact ⟨_, rfl, tick_finish_IR _ _, tick_finish_PC _ _, tick_finish_C _ _, tick_finish_P _ _, tick_finish_S _ _, tick_finish_emulation _ _, tick_finish_brk _ _, tick_finish_AD _ _⟩
  · exact hpg

theorem decode_30_3 (c : w65816_t) (p : Nat) :
    w65816_decode 0x183 c p = op_30 3 c p := by
  show decode_3 0x0 3 c p = _
  rfl

theorem op30_3_word (c : w65816_t) (f : PinF) :
    op_30 3 c f.word = some ({ c with PC := c.AD },
      ({ f with a := c.AD, vpa := true, vda := true } : PinF).word) := by
  simp only [op_30, FETCH_word]

/-- Sub-cycle 3 of BMI: PC becomes AD and the next opcode fetch is issued. -/
theorem bmi_t3 (c : w65816_t) (a d bank : Nat) (rw vpa vda : Bool)
    (hs : (vpa && vda) = false) (hIR : c.IR = 0x183) :
    ∃ c1, w65816_tick c (qpins a d rw vpa vda bank).word =
        some (c1, (qpins c.AD d true true true bank).word) ∧
      c1.IR = 0x184 ∧ c1.PC = c.AD ∧ c1.C = c.C ∧
      c1.P = (if c.emulation ≠ 0 then (c.P ||| 0x20) % 256 else c.P) ∧
      c1.S = (if c.emulation ≠ 0 then 0x0100 ||| (c.S &&& 0xFF) else c.S) ∧
      c1.emulation = c.emulation ∧ c1.brk_flags = c.brk_flags ∧ c1.AD = c.AD := by
  rw [tick_step_op c a d bank rw vpa vda hs, hIR, decode_30_3,
    op30_3_word, Option.map_some', tick_finish_pair]
  exact ⟨_, rfl, tick_finish_IR _ _, tick_finish_PC _ _, tick_finish_C _ _, tick_finish_P _ _, tick_finish_S _ _, tick_finish_emulation _ _, tick_finish_brk _ _, tick_finish_AD _ _⟩

/-! ### BVC (0x50) -/

theorem decode_50_0 (c : w65816_t) (p : Nat) :
    w65816_decode 0x280 c p = op_50 0 c p := by
  show decode_5 0x0 0 c p = _
  rfl

theorem op50_0_word (c : w65816_t) (f : PinF) :
    op_50 0 c f.word = some ({ c with PC := (c.PC + 1) % 65536 },
      ({ f with a := c.PC, vpa := true } : PinF).word) := by
  simp only [op_50, VPA_word, SA_word]

/-- Sync tick of BVC: the offset byte after the opcode is addressed with VPA. -/
theorem bvc_t0 (c : w65816_t) (a bank : Nat) (rw : Bool) (hb : c.brk_flags = 0)
    (hi : c.irq_pip = 0) (hn : c.nmi_pip = 0) :
    ∃ c1, w65816_tick c (qpins a 0x50 rw true true bank).word =
        some (c1, (qpins ((c.PC + 1) % 65536) 0x50 true true false bank).word) ∧
      c1.IR = 0x281 ∧ c1.PC = ((c.PC + 1) % 65536 + 1) % 65536 ∧ c1.C = c.C ∧
      c1.P = (if c.emulation ≠ 0 then (c.P ||| 0x20) % 256 else c.P) ∧
      c1.S = (if c.emulation ≠ 0 then 0x0100 ||| (c.S &&& 0xFF) else c.S) ∧
      c1.emulation = c.emulation ∧ c1.brk_flags = 0 ∧ c1.AD = c.AD := by
  rw [tick_sync_op c a 0x50 bank rw hb hi hn]
  have e : ((0x50 % 256) <<< 3) % 65536 = 0x280 := by decide
  rw [e, decode_50_0, op50_0_word, Option.map_some', tick_finish_pair]
  exact ⟨_, rfl, tick_finish_IR _ _, tick_finish_PC _ _, tick_finish_C _ _, tick_finish_P _ _, tick_finish_S _ _, tick_finish_emulation _ _, tick_finish_brk _ _, tick_finish_AD _ _⟩

theorem decode_50_1 (c : w65816_t) (p : Nat) :
    w65816_decode 0x281 c p = op_50 1 c p := by
  show decode_5 0x0 1 c p = _
  rfl

theorem op50_1_word_nt (c : w65816_t) (f : PinF) (hP : c.P &&& 0x40 ≠ 0x0) :
    op_50 1 c f.word = some ({ c with AD := (c.PC + SEXT8 (f.d % 256)) % 65536 },
      ({ f with a := c.PC, vpa := true, vda := true } : PinF).word) := by
  simp only [op_50, GD_word, SA_word]
  rw [if_pos hP]
  simp only [FETCH_word]

theorem op50_1_word_tk (c : w65816_t) (f : PinF) (hP : c.P &&& 0x40 = 0x0) :
    op_50 1 c f.word = some ({ c with AD := (c.PC + SEXT8 (f.d % 256)) % 65536 },
      ({ f with a := c.PC } : PinF).word) := by
  simp only [op_50, GD_word, SA_word]
  rw [if_neg (not_not.2 hP)]

/-- Sub-cycle 1 of BVC, branch not taken: the next opcode fetch is issued at PC. -/
theorem bvc_t1_nt (c : w65816_t) (a d bank : Nat) (rw vpa vda : Bool)
    (hs : (vpa && vda) = false) (hIR : c.IR = 0x281) (hP : c.P &&& 0x40 ≠ 0x0) :
    ∃ c1, w65816_tick c (qpins a d rw vpa vda bank).word =
        some (c1, (qpins c.PC d true true true bank).word) ∧
      c1.IR = 0x282 ∧ c1.PC = c.PC ∧ c1.C = c.C ∧
      c1.P = (if c.emulation ≠ 0 then (c.P ||| 0x20) % 256 else c.P) ∧
      c1.S = (if c.emulation ≠ 0 then 0x0100 ||| (c.S &&& 0xFF) else c.S) ∧
      c1.emulation = c.emulation ∧ c1.brk_flags = c.brk_flags ∧
      c1.AD = (c.PC + SEXT8 (d % 256)) % 65536 := by
  rw [tick_step_op c a d bank rw vpa vda hs, hIR, decode_50_1,
    op50_1_word_nt, Option.map_some', tick_finish_pair]
  · exact ⟨_, rfl, tick_finish_IR _ _, tick_finish_PC _ _, tick_finish_C _ _, tick_finish_P _ _, tick_finish_S _ _, tick_finish_emulation _ _, tick_finish_brk _ _, tick_finish_AD _ _⟩
  · exact hP

/-- Sub-cycle 1 of BVC, branch taken: the target PC + offset is computed into AD. -/
theorem bvc_t1_tk (c : w65816_t) (a d bank : Nat) (rw vpa vda : Bool)
    (hs : (vpa && vda) = false) (hIR : c.IR = 0x281) (hP : c.P &&& 0x40 = 0x0) :
    ∃ c1, w65816_tick c (qpins a d rw vpa vda bank).word =
        some (c1, (qpins c.PC d true false false bank).word) ∧
      c1.IR = 0x282 ∧ c1.PC = c.PC ∧ c1.C = c.C ∧
      c1.P = (if c.emulation ≠ 0 then (c.P ||| 0x20) % 256 else c.P) ∧
      c1.S = (if c.emulation ≠ 0 then 0x0100 ||| (c.S &&& 0xFF) else c.S) ∧
      c1.emulation = c.emulation ∧ c1.brk_flags = c.brk_flags ∧
      c1.AD = (c.PC + SEXT8 (d % 256)) % 65536 := by
  rw [tick_step_op c a d bank rw vpa vda hs, hIR, decode_50_1,
    op50_1_word_tk, Option.map_some', tick_finish_pair]
  · exact ⟨_, rfl, tick_finish_IR _ _, tick_finish_PC _ _, tick_finish_C _ _, tick_finish_P _ _, tick_finish_S _ _, tick_finish_emulation _ _, tick_finish_brk _ _, tick_finish_AD _ _⟩
  · exact hP

theorem decode_50_2 (c : w65816_t) (p : Nat) :
    w65816_decode 0x282 c p = op_50 2 c p := by
  show decode_5 0x0 2 c p = _
  rfl

theorem op50_2_word_same (c : w65816_t) (f : PinF)
    (hpg : c.AD &&& 0xFF00 = c.PC &&& 0xFF00) :
    op_50 2 c f.word =
      some ({ c with PC := c.AD, irq_pip := c.irq_pip >>> 1, nmi_pip := c.nmi_pip >>> 1 },
      ({ f with a := c.AD, vpa := true, vda := true } : PinF).word) := by
  simp only [op_50, SA_word]
  rw [if_pos hpg]
  simp only [FETCH_word]

theorem op50_2_word_cross (c : w65816_t) (f : PinF)
    (hpg : c.AD &&& 0xFF00 ≠ c.PC &&& 0xFF00) :
    op_50 2 c f.word = some (c,
      ({ f with a := (c.PC &&& 0xFF00) ||| (c.AD &&& 0x00FF) } : PinF).word) := by
  simp only [op_50, SA_word]
  rw [if_neg hpg]

/-- Sub-cycle 2 of BVC, target in the page of PC: PC becomes AD and the next opcode fetch is
issued. -/
theorem bvc_t2_same (c : w65816_t) (a d bank : Nat) (rw vpa vda : Bool)
    (hs : (vpa && vda) = false) (hIR : c.IR = 0x282) (hpg : c.AD &&& 0xFF00 = c.PC &&& 0xFF00) :
    ∃ c1, w65816_tick c (qpins a d rw vpa vda bank).word =
        some (c1, (qpins c.AD d true true true bank).word) ∧
      c1.IR = 0x283 ∧ c1.PC = c.AD ∧ c1.C = c.C ∧
      c1.P = (if c.emulation ≠ 0 then (c.P ||| 0x20) % 256 else c.P) ∧
      c1.S = (if c.emulation ≠ 0 then 0x0100 ||| (c.S &&& 0xFF) else c.S) ∧
      c1.emulation = c.emulation ∧ c1.brk_flags = c.brk_flags ∧ c1.AD = c.AD := by
  rw [tick_step_op c a d bank rw vpa vda hs, hIR, decode_50_2,
    op50_2_word_same, Option.map_some', tick_finish_pair]
  · exact ⟨_, rfl, tick_finish_IR _ _, tick_finish_PC _ _, tick_finish_C _ _, tick_finish_P _ _, tick_finish_S _ _, tick_finish_emulation _ _, tick_finish_brk _ _, tick_finish_AD _ _⟩
  · exact hpg

/-- Sub-cycle 2 of BVC, target in another page: one more cycle is spent. -/
theorem bvc_t2_cross (c : w65816_t) (a d bank : Nat) (rw vpa vda : Bool)
    (hs : (vpa && vda) = false) (hIR : c.IR = 0x282) (hpg : c.AD &&& 0xFF00 ≠ c.PC &&& 0xFF00) :
    ∃ c1, w65816_tick c (qpins a d rw vpa vda bank).word =
        some (c1, (qpins ((c.PC &&& 0xFF00) ||| (c.AD &&& 0x00FF)) d true false false bank).word) ∧
      c1.IR = 0x283 ∧ c1.PC = c.PC ∧ c1.C = c.C ∧
      c1.P = (if c.emulation ≠ 0 then (c.P ||| 0x20) % 256 else c.P) ∧
      c1.S = (if c.emulation ≠ 0 then 0x0100 ||| (c.S &&& 0xFF) else c.S) ∧
      c1.emulation = c.emulation ∧ c1.brk_flags = c.brk_flags ∧ c1.AD = c.AD := by
  rw [tick_step_op c a d bank rw vpa vda hs, hIR, decode_50_2,
    op50_2_word_cross, Option.map_some', tick_finish_pair]
  · exact ⟨_, rfl, tick_finish_IR _ _, tick_finish_PC _ _, tick_finish_C _ _, tick_finish_P _ _, tick_finish_S _ _, tick_finish_emulation _ _, tick_finish_brk _ _, tick_finish_AD _ _⟩
  · exact hpg

theorem decode_50_3 (c : w65816_t) (p : Nat) :
    w65816_decode 0x283 c p = op_50 3 c p := by
  show decode_5 0x0 3 c p = _
  rfl

theorem op50_3_word (c : w65816_t) (f : PinF) :
    op_50 3 c f.word = some ({ c with PC := c.AD },
      ({ f with a := c.AD, vpa := true, vda := true } : PinF).word) := by
  simp only [op_50, FETCH_word]

/-- Sub-cycle 3 of BVC: PC becomes AD and the next opcode fetch is issued. -/
theorem bvc_t3 (c : w65816_t) (a d bank : Nat) (rw vpa vda : Bool)
    (hs : (vpa && vda) = false) (hIR : c.IR = 0x283) :
    ∃ c1, w65816_tick c (qpins a d rw vpa vda bank).word =
        some (c1, (qpins c.AD d true true true bank).word) ∧
      c1.IR = 0x284 ∧ c1.PC = c.AD ∧ c1.C = c.C ∧
      c1.P = (if c.emulation ≠ 0 then (c.P ||| 0x20) % 256 else c.P) ∧
      c1.S = (if c.emulation ≠ 0 then 0x0100 ||| (c.S &&& 0xFF) else c.S) ∧
      c1.emulation = c.emulation ∧ c1.brk_flags = c.brk_flags ∧ c1.AD = c.AD := by
  rw [tick_step_op c a d bank rw vpa vda hs, hIR, decode_50_3,
    op50_3_word, Option.map_some', tick_finish_pair]
  exact ⟨_, rfl, tick_finish_IR _ _, tick_finish_PC _ _, tick_finish_C _ _, tick_finish_P _ _, tick_finish_S _ _, tick_finish_emulation _ _, tick_finish_brk _ _, tick_finish_AD _ _⟩

/-! ### BVS (0x70) -/

theorem decode_70_0 (c : w65816_t) (p : Nat) :
    w65816_decode 0x380 c p = op_70 0 c p := by
  show decode_7 0x0 0 c p = _
  rfl

theorem op70_0_word (c : w65816_t) (f : PinF) :
    op_70 0 c f.word = some ({ c with PC := (c.PC + 1) % 65536 },
      ({ f with a := c.PC, vpa := true } : PinF).word) := by
  simp only [op_70, VPA_word, SA_word]

/-- Sync tick of BVS: the offset byte after the opcode is addressed with VPA. -/
theorem bvs_t0 (c : w65816_t) (a bank : Nat) (rw : Bool) (hb : c.brk_flags = 0)
    (hi : c.irq_pip = 0) (hn : c.nmi_pip = 0) :
    ∃ c1, w65816_tick c (qpins a 0x70 rw true true bank).word =
        some (c1, (qpins ((c.PC + 1) % 65536) 0x70 true true false bank).word) ∧
      c1.IR = 0x381 ∧ c1.PC = ((c.PC + 1) % 65536 + 1) % 65536 ∧ c1.C = c.C ∧
      c1.P = (if c.emulation ≠ 0 then (c.P ||| 0x20) % 256 else c.P) ∧
      c1.S = (if c.emulation ≠ 0 then 0x0100 ||| (c.S &&& 0xFF) else c.S) ∧
      c1.emulation = c.emulation ∧ c1.brk_flags = 0 ∧ c1.AD = c.AD := by
  rw [tick_sync_op c a 0x70 bank rw hb hi hn]
  have e : ((0x70 % 256) <<< 3) % 65536 = 0x380 := by decide
  rw [e, decode_70_0, op70_0_word, Option.map_some', tick_finish_pair]
  exact ⟨_, rfl, tick_finish_IR _ _, tick_finish_PC _ _, tick_finish_C _ _, tick_finish_P _ _, tick_finish_S _ _, tick_finish_emulation _ _, tick_finish_brk _ _, tick_finish_AD _ _⟩

theorem decode_70_1 (c : w65816_t) (p : Nat) :
    w65816_decode 0x381 c p = op_70 1 c p := by
  show decode_7 0x0 1 c p = _
  rfl

theorem op70_1_word_nt (c : w65816_t) (f : PinF) (hP : c.P &&& 0x40 ≠ 0x40) :
    op_70 1 c f.word = some ({ c with AD := (c.PC + SEXT8 (f.d % 256)) % 65536 },
      ({ f with a := c.PC, vpa := true, vda := true } : PinF).word) := by
  simp only [op_70, GD_word, SA_word]
  rw [if_pos hP]
  simp only [FETCH_word]

theorem op70_1_word_tk (c : w65816_t) (f : PinF) (hP : c.P &&& 0x40 = 0x40) :
    op_70 1 c f.word = some ({ c with AD := (c.PC + SEXT8 (f.d % 256)) % 65536 },
      ({ f with a := c.PC } : PinF).word) := by
  simp only [op_70, GD_word, SA_word]
  rw [if_neg (not_not.2 hP)]

/-- Sub-cycle 1 of BVS, branch not taken: the next opcode fetch is issued at PC. -/
theorem bvs_t1_nt (c : w65816_t) (a d bank : Nat) (rw vpa vda : Bool)
    (hs : (vpa && vda) = false) (hIR : c.IR = 0x381) (hP : c.P &&& 0x40 ≠ 0x40) :
    ∃ c1, w65816_tick c (qpins a d rw vpa vda bank).word =
        some (c1, (qpins c.PC d true true true bank).word) ∧
      c1.IR = 0x382 ∧ c1.PC = c.PC ∧ c1.C = c.C ∧
      c1.P = (if c.emulation ≠ 0 then (c.P ||| 0x20) % 256 else c.P) ∧
      c1.S = (if c.emulation ≠ 0 then 0x0100 ||| (c.S &&& 0xFF) else c.S) ∧
      c1.emulation = c.emulation ∧ c1.brk_flags = c.brk_flags ∧
      c1.AD = (c.PC + SEXT8 (d % 256)) % 65536 := by
  rw [tick_step_op c a d bank rw vpa vda hs, hIR, decode_70_1,
    op70_1_word_nt, Option.map_some', tick_finish_pair]
  · exact ⟨_, rfl, tick_finish_IR _ _, tick_finish_PC _ _, tick_finish_C _ _, tick_finish_P _ _, tick_finish_S _ _, tick_finish_emulation _ _, tick_finish_brk _ _, tick_finish_AD _ _⟩
  · exact hP

/-- Sub-cycle 1 of BVS, branch taken: the target PC + offset is computed into AD. -/
theorem bvs_t1_tk (c : w65816_t) (a d bank : Nat) (rw vpa vda : Bool)
    (hs : (vpa && vda) = false) (hIR : c.IR = 0x381) (hP : c.P &&& 0x40 = 0x40) :
    ∃ c1, w65816_tick c (qpins a d rw vpa vda bank).word =
        some (c1, (qpins c.PC d true false false bank).word) ∧
      c1.IR = 0x382 ∧ c1.PC = c.PC ∧ c1.C = c.C ∧
      c1.P = (if c.emulation ≠ 0 then (c.P ||| 0x20) % 256 else c.P) ∧
      c1.S = (if c.emulation ≠ 0 then 0x0100 ||| (c.S &&& 0xFF) else c.S) ∧
      c1.emulation = c.emulation ∧ c1.brk_flags = c.brk_flags ∧
      c1.AD = (c.PC + SEXT8 (d % 256)) % 65536 := by
  rw [tick_step_op c a d bank rw vpa vda hs, hIR, decode_70_1,
    op70_1_word_tk, Option.map_some', tick_finish_pair]
  · exact ⟨_, rfl, tick_finish_IR _ _, tick_finish_PC _ _, tick_finish_C _ _, tick_finish_P _ _, tick_finish_S _ _, tick_finish_emulation _ _, tick_finish_brk _ _, tick_finish_AD _ _⟩
  · exact hP

theorem decode_70_2 (c : w65816_t) (p : Nat) :
    w65816_decode 0x382 c p = op_70 2 c p := by
  show decode_7 0x0 2 c p = _
  rfl

theorem op70_2_word_same (c : w65816_t) (f : PinF)
    (hpg : c.AD &&& 0xFF00 = c.PC &&& 0xFF00) :
    op_70 2 c f.word =
      some ({ c with PC := c.AD, irq_pip := c.irq_pip >>> 1, nmi_pip := c.nmi_pip >>> 1 },
      ({ f with a := c.AD, vpa := true, vda := true } : PinF).word) := by
  simp only [op_70, SA_word]
  rw [if_pos hpg]
  simp only [FETCH_word]

theorem op70_2_word_cross (c : w65816_t) (f : PinF)
    (hpg : c.AD &&& 0xFF00 ≠ c.PC &&& 0xFF00) :
    op_70 2 c f.word = some (c,
      ({ f with a := (c.PC &&& 0xFF00) ||| (c.AD &&& 0x00FF) } : PinF).word) := by
  simp only [op_70, SA_word]
  rw [if_neg hpg]

/-- Sub-cycle 2 of BVS, target in the page of PC: PC becomes AD and the next opcode fetch is
issued. -/
theorem bvs_t2_same (c : w65816_t) (a d bank : Nat) (rw vpa vda : Bool)
    (hs : (vpa && vda) = false) (hIR : c.IR = 0x382) (hpg : c.AD &&& 0xFF00 = c.PC &&& 0xFF00) :
    ∃ c1, w65816_tick c (qpins a d rw vpa vda bank).word =
        some (c1, (qpins c.AD d true true true bank).word) ∧
      c1.IR = 0x383 ∧ c1.PC = c.AD ∧ c1.C = c.C ∧
      c1.P = (if c.emulation ≠ 0 then (c.P ||| 0x20) % 256 else c.P) ∧
      c1.S = (if c.emulation ≠ 0 then 0x0100 ||| (c.S &&& 0xFF) else c.S) ∧
      c1.emulation = c.emulation ∧ c1.brk_flags = c.brk_flags ∧ c1.AD = c.AD := by
  rw [tick_step_op c a d bank rw vpa vda hs, hIR, decode_70_2,
    op70_2_word_same, Option.map_some', tick_finish_pair]
  · exact ⟨_, rfl, tick_finish_IR _ _, tick_finish_PC _ _, tick_finish_C _ _, tick_finish_P _ _, tick_finish_S _ _, tick_finish_emulation _ _, tick_finish_brk _ _, tick_finish_AD _ _⟩
  · exact hpg

/-- Sub-cycle 2 of BVS, target in another page: one more cycle is spent. -/
theorem bvs_t2_cross (c : w65816_t) (a d bank : Nat) (rw vpa vda : Bool)
    (hs : (vpa && vda) = false) (hIR : c.IR = 0x382) (hpg : c.AD &&& 0xFF00 ≠ c.PC &&& 0xFF00) :
    ∃ c1, w65816_tick c (qpins a d rw vpa vda bank).word =
        some (c1, (qpins ((c.PC &&& 0xFF00) ||| (c.AD &&& 0x00FF)) d true false false bank).word) ∧
      c1.IR = 0x383 ∧ c1.PC = c.PC ∧ c1.C = c.C ∧
      c1.P = (if c.emulation ≠ 0 then (c.P ||| 0x20) % 256 else c.P) ∧
      c1.S = (if c.emulation ≠ 0 then 0x0100 ||| (c.S &&& 0xFF) else c.S) ∧
      c1.emulation = c.emulation ∧ c1.brk_flags = c.brk_flags ∧ c1.AD = c.AD := by
  rw [tick_step_op c a d bank rw vpa vda hs, hIR, decode_70_2,
    op70_2_word_cross, Option.map_some', tick_finish_pair]
  · exact ⟨_, rfl, tick_finish_IR _ _, tick_finish_PC _ _, tick_finish_C _ _, tick_finish_P _ _, tick_finish_S _ _, tick_finish_emulation _ _, tick_finish_brk _ _, tick_finish_AD _ _⟩
  · exact hpg

theorem decode_70_3 (c : w65816_t) (p : Nat) :
    w65816_decode 0x383 c p = op_70 3 c p := by
  show decode_7 0x0 3 c p = _
  rfl

theorem op70_3_word (c : w65816_t) (f : PinF) :
    op_70 3 c f.word = some ({ c with PC := c.AD },
      ({ f with a := c.AD, vpa := true, vda := true } : PinF).word) := by
  simp only [op_70, FETCH_word]

/-- Sub-cycle 3 of BVS: PC becomes AD and the next opcode fetch is issued. -/
theorem bvs_t3 (c : w65816_t) (a d bank : Nat) (rw vpa vda : Bool)
    (hs : (vpa && vda) = false) (hIR : c.IR = 0x383) :
    ∃ c1, w65816_tick c (qpins a d rw vpa vda bank).word =
        some (c1, (qpins c.AD d true true true bank).word) ∧
      c1.IR = 0x384 ∧ c1.PC = c.AD ∧ c1.C = c.C ∧
      c1.P = (if c.emulation ≠ 0 then (c.P ||| 0x20) % 256 else c.P) ∧
      c1.S = (if c.emulation ≠ 0 then 0x0100 ||| (c.S &&& 0xFF) else c.S) ∧
      c1.emulation = c.emulation ∧ c1.brk_flags = c.brk_flags ∧ c1.AD = c.AD := by
  rw [tick_step_op c a d bank rw vpa vda hs, hIR, decode_70_3,
    op70_3_word, Option.map_some', tick_finish_pair]
  exact ⟨_, rfl, tick_finish_IR _ _, tick_finish_PC _ _, tick_finish_C _ _, tick_finish_P _ _, tick_finish_S _ _, tick_finish_emulation _ _, tick_finish_brk _ _, tick_finish_AD _ _⟩

/-! ### BCC (0x90) -/

theorem decode_90_0 (c : w65816_t) (p : Nat) :
    w65816_decode 0x480 c p = op_90 0 c p := by
  show decode_9 0x0 0 c p = _
  rfl

theorem op90_0_word (c : w65816_t) (f : PinF) :
    op_90 0 c f.word = some ({ c with PC := (c.PC + 1) % 65536 },
      ({ f with a := c.PC, vpa := true } : PinF).word) := by
  simp only [op_90, VPA_word, SA_word]

/-- Sync tick of BCC: the offset byte after the opcode is addressed with VPA. -/
theorem bcc_t0 (c : w65816_t) (a bank : Nat) (rw : Bool) (hb : c.brk_flags = 0)
    (hi : c.irq_pip = 0) (hn : c.nmi_pip = 0) :
    ∃ c1, w65816_tick c (qpins a 0x90 rw true true bank).word =
        some (c1, (qpins ((c.PC + 1) % 65536) 0x90 true true false bank).word) ∧
      c1.IR = 0x481 ∧ c1.PC = ((c.PC + 1) % 65536 + 1) % 65536 ∧ c1.C = c.C ∧
      c1.P = (if c.emulation ≠ 0 then (c.P ||| 0x20) % 256 else c.P) ∧
      c1.S = (if c.emulation ≠ 0 then 0x0100 ||| (c.S &&& 0xFF) else c.S) ∧
      c1.emulation = c.emulation ∧ c1.brk_flags = 0 ∧ c1.AD = c.AD := by
  rw [tick_sync_op c a 0x90 bank rw hb hi hn]
  have e : ((0x90 % 256) <<< 3) % 65536 = 0x480 := by decide
  rw [e, decode_90_0, op90_0_word, Option.map_some', tick_finish_pair]
  exact ⟨_, rfl, tick_finish_IR _ _, tick_finish_PC _ _, tick_finish_C _ _, tick_finish_P _ _, tick_finish_S _ _, tick_finish_emulation _ _, tick_finish_brk _ _, tick_finish_AD _ _⟩

theorem decode_90_1 (c : w65816_t) (p : Nat) :
    w65816_decode 0x481 c p = op_90 1 c p := by
  show decode_9 0x0 1 c p = _
  rfl

theorem op90_1_word_nt (c : w65816_t) (f : PinF) (hP : c.P &&& 0x1 ≠ 0x0) :
    op_90 1 c f.word = some ({ c with AD := (c.PC + SEXT8 (f.d % 256)) % 65536 },
      ({ f with a := c.PC, vpa := true, vda := true } : PinF).word) := by
  simp only [op_90, GD_word, SA_word]
  rw [if_pos hP]
  simp only [FETCH_word]

theorem op90_1_word_tk (c : w65816_t) (f : PinF) (hP : c.P &&& 0x1 = 0x0) :
    op_90 1 c f.word = some ({ c with AD := (c.PC + SEXT8 (f.d % 256)) % 65536 },
      ({ f with a := c.PC } : PinF).word) := by
  simp only [op_90, GD_word, SA_word]
  rw [if_neg (not_not.2 hP)]

/-- Sub-cycle 1 of BCC, branch not taken: the next opcode fetch is issued at PC. -/
theorem bcc_t1_nt (c : w65816_t) (a d bank : Nat) (rw vpa vda : Bool)
    (hs : (vpa && vda) = false) (hIR : c.IR = 0x481) (hP : c.P &&& 0x1 ≠ 0x0) :
    ∃ c1, w65816_tick c (qpins a d rw vpa vda bank).word =
        some (c1, (qpins c.PC d true true true bank).word) ∧
      c1.IR = 0x482 ∧ c1.PC = c.PC ∧ c1.C = c.C ∧
      c1.P = (if c.emulation ≠ 0 then (c.P ||| 0x20) % 256 else c.P) ∧
      c1.S = (if c.emulation ≠ 0 then 0x0100 ||| (c.S &&& 0xFF) else c.S) ∧
      c1.emulation = c.emulation ∧ c1.brk_flags = c.brk_flags ∧
      c1.AD = (c.PC + SEXT8 (d % 256)) % 65536 := by
  rw [tick_step_op c a d bank rw vpa vda hs, hIR, decode_90_1,
    op90_1_word_nt, Option.map_some', tick_finish_pair]
  · exact ⟨_, rfl, tick_finish_IR _ _, tick_finish_PC _ _, tick_finish_C _ _, tick_finish_P _ _, tick_finish_S _ _, tick_finish_emulation _ _, tick_finish_brk _ _, tick_finish_AD _ _⟩
  · exact hP

/-- Sub-cycle 1 of BCC, branch taken: the target PC + offset is computed into AD. -/
theorem bcc_t1_tk (c : w65816_t) (a d bank : Nat) (rw vpa vda : Bool)
    (hs : (vpa && vda) = false) (hIR : c.IR = 0x481) (hP : c.P &&& 0x1 = 0x0) :
    ∃ c1, w65816_tick c (qpins a d rw vpa vda bank).word =
        some (c1, (qpins c.PC d true false false bank).word) ∧
      c1.IR = 0x482 ∧ c1.PC = c.PC ∧ c1.C = c.C ∧
      c1.P = (if c.emulation ≠ 0 then (c.P ||| 0x20) % 256 else c.P) ∧
      c1.S = (if c.emulation ≠ 0 then 0x0100 ||| (c.S &&& 0xFF) else c.S) ∧
      c1.emulation = c.emulation ∧ c1.brk_flags = c.brk_flags ∧
      c1.AD = (c.PC + SEXT8 (d % 256)) % 65536 := by
  rw [tick_step_op c a d bank rw vpa vda hs, hIR, decode_90_1,
    op90_1_word_tk, Option.map_some', tick_finish_pair]
  · exact ⟨_, rfl, tick_finish_IR _ _, tick_finish_PC _ _, tick_finish_C _ _, tick_finish_P _ _, tick_finish_S _ _, tick_finish_emulation _ _, tick_finish_brk _ _, tick_finish_AD _ _⟩
  · exact hP

theorem decode_90_2 (c : w65816_t) (p : Nat) :
    w65816_decode 0x482 c p = op_90 2 c p := by
  show decode_9 0x0 2 c p = _
  rfl

theorem op90_2_word_same (c : w65816_t) (f : PinF)
    (hpg : c.AD &&& 0xFF00 = c.PC &&& 0xFF00) :
    op_90 2 c f.word =
      some ({ c with PC := c.AD, irq_pip := c.irq_pip >>> 1, nmi_pip := c.nmi_pip >>> 1 },
      ({ f with a := c.AD, vpa := true, vda := true } : PinF).word) := by
  simp only [op_90, SA_word]
  rw [if_pos hpg]
  simp only [FETCH_word]

theorem op90_2_word_cross (c : w65816_t) (f : PinF)
    (hpg : c.AD &&& 0xFF00 ≠ c.PC &&& 0xFF00) :
    op_90 2 c f.word = some (c,
      ({ f with a := (c.PC &&& 0xFF00) ||| (c.AD &&& 0x00FF) } : PinF).word) := by
  simp only [op_90, SA_word]
  rw [if_neg hpg]

/-- Sub-cycle 2 of BCC, target in the page of PC: PC becomes AD and the next opcode fetch is
issued. -/
theorem bcc_t2_same (c : w65816_t) (a d bank : Nat) (rw vpa vda : Bool)
    (hs : (vpa && vda) = false) (hIR : c.IR = 0x482) (hpg : c.AD &&& 0xFF00 = c.PC &&& 0xFF00) :
    ∃ c1, w65816_tick c (qpins a d rw vpa vda bank).word =
        some (c1, (qpins c.AD d true true true bank).word) ∧
      c1.IR = 0x483 ∧ c1.PC = c.AD ∧ c1.C = c.C ∧
      c1.P = (if c.emulation ≠ 0 then (c.P ||| 0x20) % 256 else c.P) ∧
      c1.S = (if c.emulation ≠ 0 then 0x0100 ||| (c.S &&& 0xFF) else c.S) ∧
      c1.emulation = c.emulation ∧ c1.brk_flags = c.brk_flags ∧ c1.AD = c.AD := by
  rw [tick_step_op c a d bank rw vpa vda hs, hIR, decode_90_2,
    op90_2_word_same, Option.map_some', tick_finish_pair]
  · exact ⟨_, rfl, tick_finish_IR _ _, tick_finish_PC _ _, tick_finish_C _ _, tick_finish_P _ _, tick_finish_S _ _, tick_finish_emulation _ _, tick_finish_brk _ _, tick_finish_AD _ _⟩
  · exact hpg

/-- Sub-cycle 2 of BCC, target in another page: one more cycle is spent. -/
theorem bcc_t2_cross (c : w65816_t) (a d bank : Nat) (rw vpa vda : Bool)
    (hs : (vpa && vda) = false) (hIR : c.IR = 0x482) (hpg : c.AD &&& 0xFF00 ≠ c.PC &&& 0xFF00) :
    ∃ c1, w65816_tick c (qpins a d rw vpa vda bank).word =
        some (c1, (qpins ((c.PC &&& 0xFF00) ||| (c.AD &&& 0x00FF)) d true false false bank).word) ∧
      c1.IR = 0x483 ∧ c1.PC = c.PC ∧ c1.C = c.C ∧
      c1.P = (if c.emulation ≠ 0 then (c.P ||| 0x20) % 256 else c.P) ∧
      c1.S = (if c.emulation ≠ 0 then 0x0100 ||| (c.S &&& 0xFF) else c.S) ∧
      c1.emulation = c.emulation ∧ c1.brk_flags = c.brk_flags ∧ c1.AD = c.AD := by
  rw [tick_step_op c a d bank rw vpa vda hs, hIR, decode_90_2,
    op90_2_word_cross, Option.map_some', tick_finish_pair]
  · exact ⟨_, rfl, tick_finish_IR _ _, tick_finish_PC _ _, tick_finish_C _ _, tick_finish_P _ _, tick_finish_S _ _, tick_finish_emulation _ _, tick_finish_brk _ _, tick_finish_AD _ _⟩
  · exact hpg

theorem decode_90_3 (c : w65816_t) (p : Nat) :
    w65816_decode 0x483 c p = op_90 3 c p := by
  show decode_9 0x0 3 c p = _
  rfl

theorem op90_3_word (c : w65816_t) (f : PinF) :
    op_90 3 c f.word = some ({ c with PC := c.AD },
      ({ f with a := c.AD, vpa := true, vda := true } : PinF).word) := by
  simp only [op_90, FETCH_word]

/-- Sub-cycle 3 of BCC: PC becomes AD and the next opcode fetch is issued. -/
theorem bcc_t3 (c : w65816_t) (a d bank : Nat) (rw vpa vda : Bool)
    (hs : (vpa && vda) = false) (hIR : c.IR = 0x483) :
    ∃ c1, w65816_tick c (qpins a d rw vpa vda bank).word =
        some (c1, (qpins c.AD d true true true bank).word) ∧
      c1.IR = 0x484 ∧ c1.PC = c.AD ∧ c1.C = c.C ∧
      c1.P = (if c.emulation ≠ 0 then (c.P ||| 0x20) % 256 else c.P) ∧
      c1.S = (if c.emulation ≠ 0 then 0x0100 ||| (c.S &&& 0xFF) else c.S) ∧
      c1.emulation = c.emulation ∧ c1.brk_flags = c.brk_flags ∧ c1.AD = c.AD := by
  rw [tick_step_op c a d bank rw vpa vda hs, hIR, decode_90_3,
    op90_3_word, Option.map_some', tick_finish_pair]
  exact ⟨_, rfl, tick_finish_IR _ _, tick_finish_PC _ _, tick_finish_C _ _, tick_finish_P _ _, tick_finish_S _ _, tick_finish_emulation _ _, tick_finish_brk _ _, tick_finish_AD _ _⟩

/-! ### BCS (0xB0) -/

theorem decode_B0_0 (c : w65816_t) (p : Nat) :
    w65816_decode 0x580 c p = op_B0 0 c p := by
  show decode_B 0x0 0 c p = _
  rfl

theorem opB0_0_word (c : w65816_t) (f : PinF) :
    op_B0 0 c f.word = some ({ c with PC := (c.PC + 1) % 65536 },
      ({ f with a := c.PC, vpa := true } : PinF).word) := by
  simp only [op_B0, VPA_word, SA_word]

/-- Sync tick of BCS: the offset byte after the opcode is addressed with VPA. -/
theorem bcs_t0 (c : w65816_t) (a bank : Nat) (rw : Bool) (hb : c.brk_flags = 0)
    (hi : c.irq_pip = 0) (hn : c.nmi_pip = 0) :
    ∃ c1, w65816_tick c (qpins a 0xB0 rw true true bank).word =
        some (c1, (qpins ((c.PC + 1) % 65536) 0xB0 true true false bank).word) ∧
      c1.IR = 0x581 ∧ c1.PC = ((c.PC + 1) % 65536 + 1) % 65536 ∧ c1.C = c.C ∧
      c1.P = (if c.emulation ≠ 0 then (c.P ||| 0x20) % 256 else c.P) ∧
      c1.S = (if c.emulation ≠ 0 then 0x0100 ||| (c.S &&& 0xFF) else c.S) ∧
      c1.emulation = c.emulation ∧ c1.brk_flags = 0 ∧ c1.AD = c.AD := by
  rw [tick_sync_op c a 0xB0 bank rw hb hi hn]
  have e : ((0xB0 % 256) <<< 3) % 65536 = 0x580 := by decide
  rw [e, decode_B0_0, opB0_0_word, Option.map_some', tick_finish_pair]
  exact ⟨_, rfl, tick_finish_IR _ _, tick_finish_PC _ _, tick_finish_C _ _, tick_finish_P _ _, tick_finish_S _ _, tick_finish_emulation _ _, tick_finish_brk _ _, tick_finish_AD _ _⟩

theorem decode_B0_1 (c : w65816_t) (p : Nat) :
    w65816_decode 0x581 c p = op_B0 1 c p := by
  show decode_B 0x0 1 c p = _
  rfl

theorem opB0_1_word_nt (c : w65816_t) (f : PinF) (hP : c.P &&& 0x1 ≠ 0x1) :
    op_B0 1 c f.word = some ({ c with AD := (c.PC + SEXT8 (f.d % 256)) % 65536 },
      ({ f with a := c.PC, vpa := true, vda := true } : PinF).word) := by
  simp only [op_B0, GD_word, SA_word]
  rw [if_pos hP]
  simp only [FETCH_word]

theorem opB0_1_word_tk (c : w65816_t) (f : PinF) (hP : c.P &&& 0x1 = 0x1) :
    op_B0 1 c f.word = some ({ c with AD := (c.PC + SEXT8 (f.d % 256)) % 65536 },
      ({ f with a := c.PC } : PinF).word) := by
  simp only [op_B0, GD_word, SA_word]
  rw [if_neg (not_not.2 hP)]

/-- Sub-cycle 1 of BCS, branch not taken: the next opcode fetch is issued at PC. -/
theorem bcs_t1_nt (c : w65816_t) (a d bank : Nat) (rw vpa vda : Bool)
    (hs : (vpa && vda) = false) (hIR : c.IR = 0x581) (hP : c.P &&& 0x1 ≠ 0x1) :
    ∃ c1, w65816_tick c (qpins a d rw vpa vda bank).word =
        some (c1, (qpins c.PC d true true true bank).word) ∧
      c1.IR = 0x582 ∧ c1.PC = c.PC ∧ c1.C = c.C ∧
      c1.P = (if c.emulation ≠ 0 then (c.P ||| 0x20) % 256 else c.P) ∧
      c1.S = (if c.emulation ≠ 0 then 0x0100 ||| (c.S &&& 0xFF) else c.S) ∧
      c1.emulation = c.emulation ∧ c1.brk_flags = c.brk_flags ∧
      c1.AD = (c.PC + SEXT8 (d % 256)) % 65536 := by
  rw [tick_step_op c a d bank rw vpa vda hs, hIR, decode_B0_1,
    opB0_1_word_nt, Option.map_some', tick_finish_pair]
  · exact ⟨_, rfl, tick_finish_IR _ _, tick_finish_PC _ _, tick_finish_C _ _, tick_finish_P _ _, tick_finish_S _ _, tick_finish_emulation _ _, tick_finish_brk _ _, tick_finish_AD _ _⟩
  · exact hP

/-- Sub-cycle 1 of BCS, branch taken: the target PC + offset is computed into AD. -/
theorem bcs_t1_tk (c : w65816_t) (a d bank : Nat) (rw vpa vda : Bool)
    (hs : (vpa && vda) = false) (hIR : c.IR = 0x581) (hP : c.P &&& 0x1 = 0x1) :
    ∃ c1, w65816_tick c (qpins a d rw vpa vda bank).word =
        some (c1, (qpins c.PC d true false false bank).word) ∧
      c1.IR = 0x582 ∧ c1.PC = c.PC ∧ c1.C = c.C ∧
      c1.P = (if c.emulation ≠ 0 then (c.P ||| 0x20) % 256 else c.P) ∧
      c1.S = (if c.emulation ≠ 0 then 0x0100 ||| (c.S &&& 0xFF) else c.S) ∧
      c1.emulation = c.emulation ∧ c1.brk_flags = c.brk_flags ∧
      c1.AD = (c.PC + SEXT8 (d % 256)) % 65536 := by
  rw [tick_step_op c a d bank rw vpa vda hs, hIR, decode_B0_1,
    opB0_1_word_tk, Option.map_some', tick_finish_pair]
  · exact ⟨_, rfl, tick_finish_IR _ _, tick_finish_PC _ _, tick_finish_C _ _, tick_finish_P _ _, tick_finish_S _ _, tick_finish_emulation _ _, tick_finish_brk _ _, tick_finish_AD _ _⟩
  · exact hP

theorem decode_B0_2 (c : w65816_t) (p : Nat) :
    w65816_decode 0x582 c p = op_B0 2 c p := by
  show decode_B 0x0 2 c p = _
  rfl

theorem opB0_2_word_same (c : w65816_t) (f : PinF)
    (hpg : c.AD &&& 0xFF00 = c.PC &&& 0xFF00) :
    op_B0 2 c f.word =
      some ({ c with PC := c.AD, irq_pip := c.irq_pip >>> 1, nmi_pip := c.nmi_pip >>> 1 },
      ({ f with a := c.AD, vpa := true, vda := true } : PinF).word) := by
  simp only [op_B0, SA_word]
  rw [if_pos hpg]
  simp only [FETCH_word]

theorem opB0_2_word_cross (c : w65816_t) (f : PinF)
    (hpg : c.AD &&& 0xFF00 ≠ c.PC &&& 0xFF00) :
    op_B0 2 c f.word = some (c,
      ({ f with a := (c.PC &&& 0xFF00) ||| (c.AD &&& 0x00FF) } : PinF).word) := by
  simp only [op_B0, SA_word]
  rw [if_neg hpg]

/-- Sub-cycle 2 of BCS, target in the page of PC: PC becomes AD and the next opcode fetch is
issued. -/
theorem bcs_t2_same (c : w65816_t) (a d bank : Nat) (rw vpa vda : Bool)
    (hs : (vpa && vda) = false) (hIR : c.IR = 0x582) (hpg : c.AD &&& 0xFF00 = c.PC &&& 0xFF00) :
    ∃ c1, w65816_tick c (qpins a d rw vpa vda bank).word =
        some (c1, (qpins c.AD d true true true bank).word) ∧
      c1.IR = 0x583 ∧ c1.PC = c.AD ∧ c1.C = c.C ∧
      c1.P = (if c.emulation ≠ 0 then (c.P ||| 0x20) % 256 else c.P) ∧
      c1.S = (if c.emulation ≠ 0 then 0x0100 ||| (c.S &&& 0xFF) else c.S) ∧
      c1.emulation = c.emulation ∧ c1.brk_flags = c.brk_flags ∧ c1.AD = c.AD := by
  rw [tick_step_op c a d bank rw vpa vda hs, hIR, decode_B0_2,
    opB0_2_word_same, Option.map_some', tick_finish_pair]
  · exact ⟨_, rfl, tick_finish_IR _ _, tick_finish_PC _ _, tick_finish_C _ _, tick_finish_P _ _, tick_finish_S _ _, tick_finish_emulation _ _, tick_finish_brk _ _, tick_finish_AD _ _⟩
  · exact hpg

/-- Sub-cycle 2 of BCS, target in another page: one more cycle is spent. -/
theorem bcs_t2_cross (c : w65816_t) (a d bank : Nat) (rw vpa vda : Bool)
    (hs : (vpa && vda) = false) (hIR : c.IR = 0x582) (hpg : c.AD &&& 0xFF00 ≠ c.PC &&& 0xFF00) :
    ∃ c1, w65816_tick c (qpins a d rw vpa vda bank).word =
        some (c1, (qpins ((c.PC &&& 0xFF00) ||| (c.AD &&& 0x00FF)) d true false false bank).word) ∧
      c1.IR = 0x583 ∧ c1.PC = c.PC ∧ c1.C = c.C ∧
      c1.P = (if c.emulation ≠ 0 then (c.P ||| 0x20) % 256 else c.P) ∧
      c1.S = (if c.emulation ≠ 0 then 0x0100 ||| (c.S &&& 0xFF) else c.S) ∧
      c1.emulation = c.emulation ∧ c1.brk_flags = c.brk_flags ∧ c1.AD = c.AD := by
  rw [tick_step_op c a d bank rw vpa vda hs, hIR, decode_B0_2,
    opB0_2_word_cross, Option.map_some', tick_finish_pair]
  · exact ⟨_, rfl, tick_finish_IR _ _, tick_finish_PC _ _, tick_finish_C _ _, tick_finish_P _ _, tick_finish_S _ _, tick_finish_emulation _ _, tick_finish_brk _ _, tick_finish_AD _ _⟩
  · exact hpg

theorem decode_B0_3 (c : w65816_t) (p : Nat) :
    w65816_decode 0x583 c p = op_B0 3 c p := by
  show decode_B 0x0 3 c p = _
  rfl

theorem opB0_3_word (c : w65816_t) (f : PinF) :
    op_B0 3 c f.word = some ({ c with PC := c.AD },
      ({ f with a := c.AD, vpa := true, vda := true } : PinF).word) := by
  simp only [op_B0, FETCH_word]

/-- Sub-cycle 3 of BCS: PC becomes AD and the next opcode fetch is issued. -/
theorem bcs_t3 (c : w65816_t) (a d bank : Nat) (rw vpa vda : Bool)
    (hs : (vpa && vda) = false) (hIR : c.IR = 0x583) :
    ∃ c1, w65816_tick c (qpins a d rw vpa vda bank).word =
        some (c1, (qpins c.AD d true true true bank).word) ∧
      c1.IR = 0x584 ∧ c1.PC = c.AD ∧ c1.C = c.C ∧
      c1.P = (if c.emulation ≠ 0 then (c.P ||| 0x20) % 256 else c.P) ∧
      c1.S = (if c.emulation ≠ 0 then 0x0100 ||| (c.S &&& 0xFF) else c.S) ∧
      c1.emulation = c.emulation ∧ c1.brk_flags = c.brk_flags ∧ c1.AD = c.AD := by
  rw [tick_step_op c a d bank rw vpa vda hs, hIR, decode_B0_3,
    opB0_3_word, Option.map_some', tick_finish_pair]
  exact ⟨_, rfl, tick_finish_IR _ _, tick_finish_PC _ _, tick_finish_C _ _, tick_finish_P _ _, tick_finish_S _ _, tick_finish_emulation _ _, tick_finish_brk _ _, tick_finish_AD _ _⟩

/-! ### BNE (0xD0) -/

theorem decode_D0_0 (c : w65816_t) (p : Nat) :
    w65816_decode 0x680 c p = op_D0 0 c p := by
  show decode_D 0x0 0 c p = _
  rfl

theorem opD0_0_word (c : w65816_t) (f : PinF) :
    op_D0 0 c f.word = some ({ c with PC := (c.PC + 1) % 65536 },
      ({ f with a := c.PC, vpa := true } : PinF).word) := by
  simp only [op_D0, VPA_word, SA_word]

/-- Sync tick of BNE: the offset byte after the opcode is addressed with VPA. -/
theorem bne_t0 (c : w65816_t) (a bank : Nat) (rw : Bool) (hb : c.brk_flags = 0)
    (hi : c.irq_pip = 0) (hn : c.nmi_pip = 0) :
    ∃ c1, w65816_tick c (qpins a 0xD0 rw true true bank).word =
        some (c1, (qpins ((c.PC + 1) % 65536) 0xD0 true true false bank).word) ∧
      c1.IR = 0x681 ∧ c1.PC = ((c.PC + 1) % 65536 + 1) % 65536 ∧ c1.C = c.C ∧
      c1.P = (if c.emulation ≠ 0 then (c.P ||| 0x20) % 256 else c.P) ∧
      c1.S = (if c.emulation ≠ 0 then 0x0100 ||| (c.S &&& 0xFF) else c.S) ∧
      c1.emulation = c.emulation ∧ c1.brk_flags = 0 ∧ c1.AD = c.AD := by
  rw [tick_sync_op c a 0xD0 bank rw hb hi hn]
  have e : ((0xD0 % 256) <<< 3) % 65536 = 0x680 := by decide
  rw [e, decode_D0_0, opD0_0_word, Option.map_some', tick_finish_pair]
  exact ⟨_, rfl, tick_finish_IR _ _, tick_finish_PC _ _, tick_finish_C _ _, tick_finish_P _ _, tick_finish_S _ _, tick_finish_emulation _ _, tick_finish_brk _ _, tick_finish_AD _ _⟩

theorem decode_D0_1 (c : w65816_t) (p : Nat) :
    w65816_decode 0x681 c p = op_D0 1 c p := by
  show decode_D 0x0 1 c p = _
  rfl

theorem opD0_1_word_nt (c : w65816_t) (f : PinF) (hP : c.P &&& 0x2 ≠ 0x0) :
    op_D0 1 c f.word = some ({ c with AD := (c.PC + SEXT8 (f.d % 256)) % 65536 },
      ({ f with a := c.PC, vpa := true, vda := true } : PinF).word) := by
  simp only [op_D0, GD_word, SA_word]
  rw [if_pos hP]
  simp only [FETCH_word]

theorem opD0_1_word_tk (c : w65816_t) (f : PinF) (hP : c.P &&& 0x2 = 0x0) :
    op_D0 1 c f.word = some ({ c with AD := (c.PC + SEXT8 (f.d % 256)) % 65536 },
      ({ f with a := c.PC } : PinF).word) := by
  simp only [op_D0, GD_word, SA_word]
  rw [if_neg (not_not.2 hP)]

/-- Sub-cycle 1 of BNE, branch not taken: the next opcode fetch is issued at PC. -/
theorem bne_t1_nt (c : w65816_t) (a d bank : Nat) (rw vpa vda : Bool)
    (hs : (vpa && vda) = false) (hIR : c.IR = 0x681) (hP : c.P &&& 0x2 ≠ 0x0) :
    ∃ c1, w65816_tick c (qpins a d rw vpa vda bank).word =
        some (c1, (qpins c.PC d true true true bank).word) ∧
      c1.IR = 0x682 ∧ c1.PC = c.PC ∧ c1.C = c.C ∧
      c1.P = (if c.emulation ≠ 0 then (c.P ||| 0x20) % 256 else c.P) ∧
      c1.S = (if c.emulation ≠ 0 then 0x0100 ||| (c.S &&& 0xFF) else c.S) ∧
      c1.emulation = c.emulation ∧ c1.brk_flags = c.brk_flags ∧
      c1.AD = (c.PC + SEXT8 (d % 256)) % 65536 := by
  rw [tick_step_op c a d bank rw vpa vda hs, hIR, decode_D0_1,
    opD0_1_word_nt, Option.map_some', tick_finish_pair]
  · exact ⟨_, rfl, tick_finish_IR _ _, tick_finish_PC _ _, tick_finish_C _ _, tick_finish_P _ _, tick_finish_S _ _, tick_finish_emulation _ _, tick_finish_brk _ _, tick_finish_AD _ _⟩
  · exact hP

/-- Sub-cycle 1 of BNE, branch taken: the target PC + offset is computed into AD. -/
theorem bne_t1_tk (c : w65816_t) (a d bank : Nat) (rw vpa vda : Bool)
    (hs : (vpa && vda) = false) (hIR : c.IR = 0x681) (hP : c.P &&& 0x2 = 0x0) :
    ∃ c1, w65816_tick c (qpins a d rw vpa vda bank).word =
        some (c1, (qpins c.PC d true false false bank).word) ∧
      c1.IR = 0x682 ∧ c1.PC = c.PC ∧ c1.C = c.C ∧
      c1.P = (if c.emulation ≠ 0 then (c.P ||| 0x20) % 256 else c.P) ∧
      c1.S = (if c.emulation ≠ 0 then 0x0100 ||| (c.S &&& 0xFF) else c.S) ∧
      c1.emulation = c.emulation ∧ c1.brk_flags = c.brk_flags ∧
      c1.AD = (c.PC + SEXT8 (d % 256)) % 65536 := by
  rw [tick_step_op c a d bank rw vpa vda hs, hIR, decode_D0_1,
    opD0_1_word_tk, Option.map_some', tick_finish_pair]
  · exact ⟨_, rfl, tick_finish_IR _ _, tick_finish_PC _ _, tick_finish_C _ _, tick_finish_P _ _, tick_finish_S _ _, tick_finish_emulation _ _, tick_finish_brk _ _, tick_finish_AD _ _⟩
  · exact hP

theorem decode_D0_2 (c : w65816_t) (p : Nat) :
    w65816_decode 0x682 c p = op_D0 2 c p := by
  show decode_D 0x0 2 c p = _
  rfl

theorem opD0_2_word_same (c : w65816_t) (f : PinF)
    (hpg : c.AD &&& 0xFF00 = c.PC &&& 0xFF00) :
    op_D0 2 c f.word =
      some ({ c with PC := c.AD, irq_pip := c.irq_pip >>> 1, nmi_pip := c.nmi_pip >>> 1 },
      ({ f with a := c.AD, vpa := true, vda := true } : PinF).word) := by
  simp only [op_D0, SA_word]
  rw [if_pos hpg]
  simp only [FETCH_word]

theorem opD0_2_word_cross (c : w65816_t) (f : PinF)
    (hpg : c.AD &&& 0xFF00 ≠ c.PC &&& 0xFF00) :
    op_D0 2 c f.word = some (c,
      ({ f with a := (c.PC &&& 0xFF00) ||| (c.AD &&& 0x00FF) } : PinF).word) := by
  simp only [op_D0, SA_word]
  rw [if_neg hpg]

/-- Sub-cycle 2 of BNE, target in the page of PC: PC becomes AD and the next opcode fetch is
issued. -/
theorem bne_t2_same (c : w65816_t) (a d bank : Nat) (rw vpa vda : Bool)
    (hs : (vpa && vda) = false) (hIR : c.IR = 0x682) (hpg : c.AD &&& 0xFF00 = c.PC &&& 0xFF00) :
    ∃ c1, w65816_tick c (qpins a d rw vpa vda bank).word =
        some (c1, (qpins c.AD d true true true bank).word) ∧
      c1.IR = 0x683 ∧ c1.PC = c.AD ∧ c1.C = c.C ∧
      c1.P = (if c.emulation ≠ 0 then (c.P ||| 0x20) % 256 else c.P) ∧
      c1.S = (if c.emulation ≠ 0 then 0x0100 ||| (c.S &&& 0xFF) else c.S) ∧
      c1.emulation = c.emulation ∧ c1.brk_flags = c.brk_flags ∧ c1.AD = c.AD := by
  rw [tick_step_op c a d bank rw vpa vda hs, hIR, decode_D0_2,
    opD0_2_word_same, Option.map_some', tick_finish_pair]
  · exact ⟨_, rfl, tick_finish_IR _ _, tick_finish_PC _ _, tick_finish_C _ _, tick_finish_P _ _, tick_finish_S _ _, tick_finish_emulation _ _, tick_finish_brk _ _, tick_finish_AD _ _⟩
  · exact hpg

/-- Sub-cycle 2 of BNE, target in another page: one more cycle is spent. -/
theorem bne_t2_cross (c : w65816_t) (a d bank : Nat) (rw vpa vda : Bool)
    (hs : (vpa && vda) = false) (hIR : c.IR = 0x682) (hpg : c.AD &&& 0xFF00 ≠ c.PC &&& 0xFF00) :
    ∃ c1, w65816_tick c (qpins a d rw vpa vda bank).word =
        some (c1, (qpins ((c.PC &&& 0xFF00) ||| (c.AD &&& 0x00FF)) d true false false bank).word) ∧
      c1.IR = 0x683 ∧ c1.PC = c.PC ∧ c1.C = c.C ∧
      c1.P = (if c.emulation ≠ 0 then (c.P ||| 0x20) % 256 else c.P) ∧
      c1.S = (if c.emulation ≠ 0 then 0x0100 ||| (c.S &&& 0xFF) else c.S) ∧
      c1.emulation = c.emulation ∧ c1.brk_flags = c.brk_flags ∧ c1.AD = c.AD := by
  rw [tick_step_op c a d bank rw vpa vda hs, hIR, decode_D0_2,
    opD0_2_word_cross, Option.map_some', tick_finish_pair]
  · exact ⟨_, rfl, tick_finish_IR _ _, tick_finish_PC _ _, tick_finish_C _ _, tick_finish_P _ _, tick_finish_S _ _, tick_finish_emulation _ _, tick_finish_brk _ _, tick_finish_AD _ _⟩
  · exact hpg

theorem decode_D0_3 (c : w65816_t) (p : Nat) :
    w65816_decode 0x683 c p = op_D0 3 c p := by
  show decode_D 0x0 3 c p = _
  rfl

theorem opD0_3_word (c : w65816_t) (f : PinF) :
    op_D0 3 c f.word = some ({ c with PC := c.AD },
      ({ f with a := c.AD, vpa := true, vda := true } : PinF).word) := by
  simp only [op_D0, FETCH_word]

/-- Sub-cycle 3 of BNE: PC becomes AD and the next opcode fetch is issued. -/
theorem bne_t3 (c : w65816_t) (a d bank : Nat) (rw vpa vda : Bool)
    (hs : (vpa && vda) = false) (hIR : c.IR = 0x683) :
    ∃ c1, w65816_tick c (qpins a d rw vpa vda bank).word =
        some (c1, (qpins c.AD d true true true bank).word) ∧
      c1.IR = 0x684 ∧ c1.PC = c.AD ∧ c1.C = c.C ∧
      c1.P = (if c.emulation ≠ 0 then (c.P ||| 0x20) % 256 else c.P) ∧
      c1.S = (if c.emulation ≠ 0 then 0x0100 ||| (c.S &&& 0xFF) else c.S) ∧
      c1.emulation = c.emulation ∧ c1.brk_flags = c.brk_flags ∧ c1.AD = c.AD := by
  rw [tick_step_op c a d bank rw vpa vda hs, hIR, decode_D0_3,
    opD0_3_word, Option.map_some', tick_finish_pair]
  exact ⟨_, rfl, tick_finish_IR _ _, tick_finish_PC _ _, tick_finish_C _ _, tick_finish_P _ _, tick_finish_S _ _, tick_finish_emulation _ _, tick_finish_brk _ _, tick_finish_AD _ _⟩

/-! ### BEQ (0xF0) -/

theorem decode_F0_0 (c : w65816_t) (p : Nat) :
    w65816_decode 0x780 c p = op_F0 0 c p := by
  show decode_F 0x0 0 c p = _
  rfl

theorem opF0_0_word (c : w65816_t) (f : PinF) :
    op_F0 0 c f.word = some ({ c with PC := (c.PC + 1) % 65536 },
      ({ f with a := c.PC, vpa := true } : PinF).word) := by
  simp only [op_F0, VPA_word, SA_word]

/-- Sync tick of BEQ: the offset byte after the opcode is addressed with VPA. -/
theorem beq_t0 (c : w65816_t) (a bank : Nat) (rw : Bool) (hb : c.brk_flags = 0)
    (hi : c.irq_pip = 0) (hn : c.nmi_pip = 0) :
    ∃ c1, w65816_tick c (qpins a 0xF0 rw true true bank).word =
        some (c1, (qpins ((c.PC + 1) % 65536) 0xF0 true true false bank).word) ∧
      c1.IR = 0x781 ∧ c1.PC = ((c.PC + 1) % 65536 + 1) % 65536 ∧ c1.C = c.C ∧
      c1.P = (if c.emulation ≠ 0 then (c.P ||| 0x20) % 256 else c.P) ∧
      c1.S = (if c.emulation ≠ 0 then 0x0100 ||| (c.S &&& 0xFF) else c.S) ∧
      c1.emulation = c.emulation ∧ c1.brk_flags = 0 ∧ c1.AD = c.AD := by
  rw [tick_sync_op c a 0xF0 bank rw hb hi hn]
  have e : ((0xF0 % 256) <<< 3) % 65536 = 0x780 := by decide
  rw [e, decode_F0_0, opF0_0_word, Option.map_some', tick_finish_pair]
  exact ⟨_, rfl, tick_finish_IR _ _, tick_finish_PC _ _, tick_finish_C _ _, tick_finish_P _ _, tick_finish_S _ _, tick_finish_emulation _ _, tick_finish_brk _ _, tick_finish_AD _ _⟩

theorem decode_F0_1 (c : w65816_t) (p : Nat) :
    w65816_decode 0x781 c p = op_F0 1 c p := by
  show decode_F 0x0 1 c p = _
  rfl

theorem opF0_1_word_nt (c : w65816_t) (f : PinF) (hP : c.P &&& 0x2 ≠ 0x2) :
    op_F0 1 c f.word = some ({ c with AD := (c.PC + SEXT8 (f.d % 256)) % 65536 },
      ({ f with a := c.PC, vpa := true, vda := true } : PinF).word) := by
  simp only [op_F0, GD_word, SA_word]
  rw [if_pos hP]
  simp only [FETCH_word]

theorem opF0_1_word_tk (c : w65816_t) (f : PinF) (hP : c.P &&& 0x2 = 0x2) :
    op_F0 1 c f.word = some ({ c with AD := (c.PC + SEXT8 (f.d % 256)) % 65536 },
      ({ f with a := c.PC } : PinF).word) := by
  simp only [op_F0, GD_word, SA_word]
  rw [if_neg (not_not.2 hP)]

/-- Sub-cycle 1 of BEQ, branch not taken: the next opcode fetch is issued at PC. -/
theorem beq_t1_nt (c : w65816_t) (a d bank : Nat) (rw vpa vda : Bool)
    (hs : (vpa && vda) = false) (hIR : c.IR = 0x781) (hP : c.P &&& 0x2 ≠ 0x2) :
    ∃ c1, w65816_tick c (qpins a d rw vpa vda bank).word =
        some (c1, (qpins c.PC d true true true bank).word) ∧
      c1.IR = 0x782 ∧ c1.PC = c.PC ∧ c1.C = c.C ∧
      c1.P = (if c.emulation ≠ 0 then (c.P ||| 0x20) % 256 else c.P) ∧
      c1.S = (if c.emulation ≠ 0 then 0x0100 ||| (c.S &&& 0xFF) else c.S) ∧
      c1.emulation = c.emulation ∧ c1.brk_flags = c.brk_flags ∧
      c1.AD = (c.PC + SEXT8 (d % 256)) % 65536 := by
  rw [tick_step_op c a d bank rw vpa vda hs, hIR, decode_F0_1,
    opF0_1_word_nt, Option.map_some', tick_finish_pair]
  · exact ⟨_, rfl, tick_finish_IR _ _, tick_finish_PC _ _, tick_finish_C _ _, tick_finish_P _ _, tick_finish_S _ _, tick_finish_emulation _ _, tick_finish_brk _ _, tick_finish_AD _ _⟩
  · exact hP

/-- Sub-cycle 1 of BEQ, branch taken: the target PC + offset is computed into AD. -/
theorem beq_t1_tk (c : w65816_t) (a d bank : Nat) (rw vpa vda : Bool)
    (hs : (vpa && vda) = false) (hIR : c.IR = 0x781) (hP : c.P &&& 0x2 = 0x2) :
    ∃ c1, w65816_tick c (qpins a d rw vpa vda bank).word =
        some (c1, (qpins c.PC d true false false bank).word) ∧
      c1.IR = 0x782 ∧ c1.PC = c.PC ∧ c1.C = c.C ∧
      c1.P = (if c.emulation ≠ 0 then (c.P ||| 0x20) % 256 else c.P) ∧
      c1.S = (if c.emulation ≠ 0 then 0x0100 ||| (c.S &&& 0xFF) else c.S) ∧
      c1.emulation = c.emulation ∧ c1.brk_flags = c.brk_flags ∧
      c1.AD = (c.PC + SEXT8 (d % 256)) % 65536 := by
  rw [tick_step_op c a d bank rw vpa vda hs, hIR, decode_F0_1,
    opF0_1_word_tk, Option.map_some', tick_finish_pair]
  · exact ⟨_, rfl, tick_finish_IR _ _, tick_finish_PC _ _, tick_finish_C _ _, tick_finish_P _ _, tick_finish_S _ _, tick_finish_emulation _ _, tick_finish_brk _ _, tick_finish_AD _ _⟩
  · exact hP

theorem decode_F0_2 (c : w65816_t) (p : Nat) :
    w65816_decode 0x782 c p = op_F0 2 c p := by
  show decode_F 0x0 2 c p = _
  rfl

theorem opF0_2_word_same (c : w65816_t) (f : PinF)
    (hpg : c.AD &&& 0xFF00 = c.PC &&& 0xFF00) :
    op_F0 2 c f.word =
      some ({ c with PC := c.AD, irq_pip := c.irq_pip >>> 1, nmi_pip := c.nmi_pip >>> 1 },
      ({ f with a := c.AD, vpa := true, vda := true } : PinF).word) := by
  simp only [op_F0, SA_word]
  rw [if_pos hpg]
  simp only [FETCH_word]

theorem opF0_2_word_cross (c : w65816_t) (f : PinF)
    (hpg : c.AD &&& 0xFF00 ≠ c.PC &&& 0xFF00) :
    op_F0 2 c f.word = some (c,
      ({ f with a := (c.PC &&& 0xFF00) ||| (c.AD &&& 0x00FF) } : PinF).word) := by
  simp only [op_F0, SA_word]
  rw [if_neg hpg]

/-- Sub-cycle 2 of BEQ, target in the page of PC: PC becomes AD and the next opcode fetch is
issued. -/
theorem beq_t2_same (c : w65816_t) (a d bank : Nat) (rw vpa vda : Bool)
    (hs : (vpa && vda) = false) (hIR : c.IR = 0x782) (hpg : c.AD &&& 0xFF00 = c.PC &&& 0xFF00) :
    ∃ c1, w65816_tick c (qpins a d rw vpa vda bank).word =
        some (c1, (qpins c.AD d true true true bank).word) ∧
      c1.IR = 0x783 ∧ c1.PC = c.AD ∧ c1.C = c.C ∧
      c1.P = (if c.emulation ≠ 0 then (c.P ||| 0x20) % 256 else c.P) ∧
      c1.S = (if c.emulation ≠ 0 then 0x0100 ||| (c.S &&& 0xFF) else c.S) ∧
      c1.emulation = c.emulation ∧ c1.brk_flags = c.brk_flags ∧ c1.AD = c.AD := by
  rw [tick_step_op c a d bank rw vpa vda hs, hIR, decode_F0_2,
    opF0_2_word_same, Option.map_some', tick_finish_pair]
  · exact ⟨_, rfl, tick_finish_IR _ _, tick_finish_PC _ _, tick_finish_C _ _, tick_finish_P _ _, tick_finish_S _ _, tick_finish_emulation _ _, tick_finish_brk _ _, tick_finish_AD _ _⟩
  · exact hpg

/-- Sub-cycle 2 of BEQ, target in another page: one more cycle is spent. -/
theorem beq_t2_cross (c : w65816_t) (a d bank : Nat) (rw vpa vda : Bool)
    (hs : (vpa && vda) = false) (hIR : c.IR = 0x782) (hpg : c.AD &&& 0xFF00 ≠ c.PC &&& 0xFF00) :
    ∃ c1, w65816_tick c (qpins a d rw vpa vda bank).word =
        some (c1, (qpins ((c.PC &&& 0xFF00) ||| (c.AD &&& 0x00FF)) d true false false bank).word) ∧
      c1.IR = 0x783 ∧ c1.PC = c.PC ∧ c1.C = c.C ∧
      c1.P = (if c.emulation ≠ 0 then (c.P ||| 0x20) % 256 else c.P) ∧
      c1.S = (if c.emulation ≠ 0 then 0x0100 ||| (c.S &&& 0xFF) else c.S) ∧
      c1.emulation = c.emulation ∧ c1.brk_flags = c.brk_flags ∧ c1.AD = c.AD := by
  rw [tick_step_op c a d bank rw vpa vda hs, hIR, decode_F0_2,
    opF0_2_word_cross, Option.map_some', tick_finish_pair]
  · exact ⟨_, rfl, tick_finish_IR _ _, tick_finish_PC _ _, tick_finish_C _ _, tick_finish_P _ _, tick_finish_S _ _, tick_finish_emulation _ _, tick_finish_brk _ _, tick_finish_AD _ _⟩
  · exact hpg

theorem decode_F0_3 (c : w65816_t) (p : Nat) :
    w65816_decode 0x783 c p = op_F0 3 c p := by
  show decode_F 0x0 3 c p = _
  rfl

theorem opF0_3_word (c : w65816_t) (f : PinF) :
    op_F0 3 c f.word = some ({ c with PC := c.AD },
      ({ f with a := c.AD, vpa := true, vda := true } : PinF).word) := by
  simp only [op_F0, FETCH_word]

/-- Sub-cycle 3 of BEQ: PC becomes AD and the next opcode fetch is issued. -/
theorem beq_t3 (c : w65816_t) (a d bank : Nat) (rw vpa vda : Bool)
    (hs : (vpa && vda) = false) (hIR : c.IR = 0x783) :
    ∃ c1, w65816_tick c (qpins a d rw vpa vda bank).word =
        some (c1, (qpins c.AD d true true true bank).word) ∧
      c1.IR = 0x784 ∧ c1.PC = c.AD ∧ c1.C = c.C ∧
      c1.P = (if c.emulation ≠ 0 then (c.P ||| 0x20) % 256 else c.P) ∧
      c1.S = (if c.emulation ≠ 0 then 0x0100 ||| (c.S &&& 0xFF) else c.S) ∧
      c1.emulation = c.emulation ∧ c1.brk_flags = c.brk_flags ∧ c1.AD = c.AD := by
  rw [tick_step_op c a d bank rw vpa vda hs, hIR, decode_F0_3,
    opF0_3_word, Option.map_some', tick_finish_pair]
  exact ⟨_, rfl, tick_finish_IR _ _, tick_finish_PC _ _, tick_finish_C _ _, tick_finish_P _ _, tick_finish_S _ _, tick_finish_emulation _ _, tick_finish_brk _ _, tick_finish_AD _ _⟩

/-! ## PHP; PLP and PHA; PLA under the host loop -/

theorem or_0100 (y : Nat) : 0x0100 ||| (y % 256) = 256 + y % 256 :=
  or_eq_add 8 _ _ (by norm_num) (Nat.mod_lt _ (by norm_num))

theorem or_hi (x y : Nat) : x / 256 % 256 * 256 ||| y % 256 = x / 256 % 256 * 256 + y % 256 :=
  or_eq_add 8 _ _ (by omega) (Nat.mod_lt _ (by norm_num))

/-- The normalisation of S at the bottom of a tick leaves a stack pointer unchanged that lies in
page 1 whenever the emulation flag is set. -/
theorem fin_S_id (e x : Nat) (h : e ≠ 0 → x / 256 = 1) :
    (if e ≠ 0 then 0x0100 ||| (x &&& 0xFF) else x) = x := by
  split_ifs with he
  · have := h he
    rw [and_FF, or_0100]
    omega
  · rfl

theorem set_S_val (x v : Nat) (hx : x < 65536) :
    (x &&& 0xFF00) ||| (v &&& 0xFF) = x / 256 * 256 + v % 256 := by
  rw [and_FF, and_FF00, or_hi]
  omega

theorem S_push_lt (x : Nat) (hx : x < 65536) :
    x / 256 * 256 + (x % 256 + 255) % 256 < 65536 := by omega

theorem S_push_page (e x : Nat) (h : e ≠ 0 → x / 256 = 1) :
    e ≠ 0 → (x / 256 * 256 + (x % 256 + 255) % 256) / 256 = 1 := by
  intro he; have := h he; omega

theorem S_push_lo (x : Nat) :
    (x / 256 * 256 + (x % 256 + 255) % 256) % 256 = (x % 256 + 255) % 256 := by omega

theorem S_pull_val (x : Nat) :
    (x / 256 * 256 + (x % 256 + 255) % 256) / 256 * 256 +
      ((x % 256 + 255) % 256 + 1) % 256 = x := by omega

theorem S_pull_lo (x : Nat) :
    ((x / 256 * 256 + (x % 256 + 255) % 256) / 256 * 256 +
      ((x % 256 + 255) % 256 + 1) % 256) % 256 = x % 256 := by omega

theorem code_addr_ne (pc x b : Nat) (h : pc % 65536 ≠ 256 + x % 256) :
    ¬ (pc % 65536 % 65536 + b = (256 + x % 256) % 65536 + b) := by omega

theorem testBit_high (x i : Nat) (hx : x < 256) (hi : 8 ≤ i) : x.testBit i = false := by
  apply Nat.testBit_lt_two_pow
  calc x < 2 ^ 8 := hx
    _ ≤ 2 ^ i := Nat.pow_le_pow_right (by norm_num) hi

theorem php_plp_bits (e p : Nat) :
    (if e ≠ 0 then
      (((((if e ≠ 0 then (p ||| 32) % 256 else p) ||| W65816_UF) % 256 % 256 % 256 |||
        W65816_BF) &&& NOT32 W65816_UF) % 256 ||| 32) % 256
     else ((((if e ≠ 0 then (p ||| 32) % 256 else p) ||| W65816_UF) % 256 % 256 % 256 |||
        W65816_BF) &&& NOT32 W65816_UF) % 256) &&& 0xCF = p &&& 0xCF := by
  apply Nat.eq_of_testBit_eq
  intro i
  rw [Nat.testBit_and, Nat.testBit_and]
  by_cases hi : i < 8
  · interval_cases i <;> split_ifs <;>
      simp only [Nat.testBit_or, Nat.testBit_and, testBit_mod256, testBit_NOT32, W65816_UF,
        W65816_BF, Nat.reduceShiftLeft] <;>
      simp only [Nat.testBit_to_div_mod, Nat.reducePow, Nat.reduceDiv, Nat.reduceMod,
        Nat.reduceLT, Nat.reduceEqDiff, decide_True, decide_False, Bool.true_and, Bool.and_true,
        Bool.false_and, Bool.and_false, Bool.or_false, Bool.false_or, Bool.or_true, Bool.true_or,
        Bool.not_true, Bool.not_false]
  · rw [testBit_high 0xCF i (by norm_num) (by omega), Bool.and_false, Bool.and_false]
theorem pc_two (x : Nat) : ((x + 1) % 65536 + 1) % 65536 = (x + 2) % 65536 := by omega

theorem set_A_restore (x : Nat) (hx : x < 65536) :
    (x &&& 0xFF00) ||| (((x &&& 0xFF) % 256 % 256 % 256) &&& 0xFF) = x := by
  rw [and_FF, and_FF, and_FF00, Nat.mod_mod, Nat.mod_mod, Nat.mod_mod, Nat.mod_mod, or_hi]
  omega

/-- C16: for every state whose sync fetch delivers PHP (0x08), with no interrupt pending, S within
16 bits and in page 1 when the emulation flag is set, the opcode PLP (0x28) after it and the
stack slot `0x0100 | (S & 0xFF)` distinct from the address of that opcode: the host loop
fetches PLP at its third iteration and the opcode after PLP at its seventh; then every bit of
P other than bit 4 and bit 5 has its value from before PHP, and S has its value from before
PHP. -/
theorem php_plp_restores (s : Sys) (a bank : Nat) (rw : Bool)
    (hpins : s.pins = (qpins a 0x08 rw true true bank).word)
    (hb : s.cpu.brk_flags = 0) (hi : s.cpu.irq_pip = 0) (hn : s.cpu.nmi_pip = 0)
    (hS : s.cpu.S < 65536) (hSe : s.cpu.emulation ≠ 0 → s.cpu.S / 256 = 1)
    (hmem : s.mem ((s.cpu.PC + 1) % 65536 + bank % 256 * 65536) % 256 = 0x28)
    (hne : (s.cpu.PC + 1) % 65536 ≠ 0x0100 ||| (s.cpu.S &&& 0xFF)) :
    (∃ s1, host_run 3 s = some s1 ∧
      s1.pins = (qpins ((s.cpu.PC + 1) % 65536) 0x28 true true true bank).word) ∧
    ∃ s2, host_run 7 s = some s2 ∧
      (s2.pins &&& W65816_VPA ≠ 0 ∧ s2.pins &&& W65816_VDA ≠ 0) ∧
      _GA s2.pins = (s.cpu.PC + 2) % 65536 ∧ s2.cpu.PC = (s.cpu.PC + 2) % 65536 ∧
      s2.cpu.P &&& 0xCF = s.cpu.P &&& 0xCF ∧ s2.cpu.S = s.cpu.S := by
  obtain ⟨c, p, mem⟩ := s
  replace hpins : p = (qpins a 0x08 rw true true bank).word := hpins
  replace hb : c.brk_flags = 0 := hb
  replace hi : c.irq_pip = 0 := hi
  replace hn : c.nmi_pip = 0 := hn
  replace hS : c.S < 65536 := hS
  replace hSe : c.emulation ≠ 0 → c.S / 256 = 1 := hSe
  replace hmem : mem ((c.PC + 1) % 65536 + bank % 256 * 65536) % 256 = 0x28 := hmem
  replace hne : (c.PC + 1) % 65536 ≠ 0x0100 ||| (c.S &&& 0xFF) := hne
  show (∃ s1, host_run 3 (Sys.mk c p mem) = some s1 ∧
      s1.pins = (qpins ((c.PC + 1) % 65536) 0x28 true true true bank).word) ∧
    ∃ s2, host_run 7 (Sys.mk c p mem) = some s2 ∧
      (s2.pins &&& W65816_VPA ≠ 0 ∧ s2.pins &&& W65816_VDA ≠ 0) ∧
      _GA s2.pins = (c.PC + 2) % 65536 ∧ s2.cpu.PC = (c.PC + 2) % 65536 ∧
      s2.cpu.P &&& 0xCF = c.P &&& 0xCF ∧ s2.cpu.S = c.S
  rw [hpins]
  rw [and_FF, or_0100] at hne
  have r0 := host_run_zero (Sys.mk c (qpins a 0x08 rw true true bank).word mem)
  -- the push: sync tick
  obtain ⟨c1, t0, i1, pc1, a1, p1, s1, e1, b1⟩ := php_t0 c a bank rw hb hi hn
  obtain ⟨q1, n1⟩ := tick_pips_q _ _ _ _ _ _ _ _ _ t0 hi hn
  have r1 := host_run_step _ _ _ _ r0 (host_step_qread _ _ mem _ _ _ _ _ _ t0)
  rw [fin_S_id _ _ hSe] at s1
  -- the push: write to the stack page
  obtain ⟨c2, t1, i2, pc2, a2, p2, s2, e2, b2⟩ := php_t1 c1 _ _ bank true false false rfl i1
  obtain ⟨q2, n2⟩ := tick_pips_q _ _ _ _ _ _ _ _ _ t1 q1 n1
  have r2 := host_run_step _ _ _ _ r1 (host_step_qwrite _ _ mem _ _ _ _ _ _ t1)
  have hlo1 : _S c1 = c.S % 256 := by rw [_S, s1, and_FF]
  rw [hlo1, or_0100] at r2 t1
  rw [hlo1, s1, set_S_val _ _ hS, e1] at s2
  have hS2 := S_push_lt c.S hS
  have hSe2 := S_push_page _ _ hSe
  rw [fin_S_id _ _ hSe2] at s2
  -- the push: fetch of the next opcode
  obtain ⟨c3, t2, i3, pc3, a3, p3, s3, e3, b3⟩ := php_t2 c2 _ _ bank false false true rfl i2
  obtain ⟨q3, n3⟩ := tick_pips_q _ _ _ _ _ _ _ _ _ t2 q2 n2
  have r3 := host_run_step _ _ _ _ r2 (host_step_qread _ _ _ _ _ _ _ _ _ t2)
  rw [pc2, pc1] at r3 t2
  rw [if_neg (code_addr_ne _ _ _ hne), Nat.mod_mod, hmem] at r3
  rw [s2, e2, e1, fin_S_id _ _ hSe2] at s3
  refine ⟨⟨_, r3, rfl⟩, ?_⟩
  -- the pull: sync tick
  obtain ⟨c4, t3, i4, pc4, a4, p4, s4, e4, b4⟩ :=
    plp_t0 c3 _ bank true (b3.trans (b2.trans b1)) q3 n3
  obtain ⟨q4, n4⟩ := tick_pips_q _ _ _ _ _ _ _ _ _ t3 q3 n3
  have r4 := host_run_step _ _ _ _ r3 (host_step_qread _ _ _ _ _ _ _ _ _ t3)
  rw [s3, e3, e2, e1, fin_S_id _ _ hSe2] at s4
  -- the pull: internal cycle
  obtain ⟨c5, t4, i5, pc5, a5, p5, s5, e5, b5⟩ := plp_t1 c4 _ _ bank true false false rfl i4
  obtain ⟨q5, n5⟩ := tick_pips_q _ _ _ _ _ _ _ _ _ t4 q4 n4
  have r5 := host_run_step _ _ _ _ r4 (host_step_qread _ _ _ _ _ _ _ _ _ t4)
  rw [s4, e4, e3, e2, e1, fin_S_id _ _ hSe2] at s5
  -- the pull: the stack page is addressed
  obtain ⟨c6, t5, i6, pc6, a6, p6, s6, e6, b6⟩ := plp_t2 c5 _ _ bank true false false rfl i5
  obtain ⟨q6, n6⟩ := tick_pips_q _ _ _ _ _ _ _ _ _ t5 q5 n5
  have r6 := host_run_step _ _ _ _ r5 (host_step_qread _ _ _ _ _ _ _ _ _ t5)
  have hlo5 : _S c5 = (c.S % 256 + 255) % 256 := by rw [_S, s5, and_FF, S_push_lo]
  have hlo6 : _S (set_S c5 (_S c5 + 1)) = c.S % 256 := by
    rw [hlo5]
    show ((c5.S &&& 0xFF00) ||| (((c.S % 256 + 255) % 256 + 1) &&& 0xFF)) &&& 0xFF = _
    rw [s5, set_S_val _ _ hS2, and_FF, S_pull_lo]
  rw [hlo6, or_0100] at r6 t5
  rw [if_pos rfl] at r6
  rw [hlo5, s5, set_S_val _ _ hS2, e5, e4, e3, e2, e1] at s6
  rw [S_pull_val, fin_S_id _ _ hSe] at s6
  -- the pull: the register is loaded
  obtain ⟨c7, t6, i7, pc7, a7, p7, s7, e7, b7⟩ := plp_t3 c6 _ _ bank true false true rfl i6
  have r7 := host_run_step _ _ _ _ r6 (host_step_qread _ _ _ _ _ _ _ _ _ t6)
  rw [s6, e6, e5, e4, e3, e2, e1, fin_S_id _ _ hSe] at s7
  have hpc : c6.PC = (c.PC + 2) % 65536 := by
    rw [pc6, pc5, pc4, pc3, pc2, pc1, pc_two]
  refine ⟨_, r7, (sync_qpins _ _ _ _ _ _).2 ⟨rfl, rfl⟩, ?_, ?_, ?_⟩
  · rw [GA_word]
    show c6.PC % 65536 = _
    rw [hpc, Nat.mod_mod]
  · show c7.PC = _
    rw [pc7, hpc]
  · refine ⟨?_, s7⟩
    show c7.P &&& 0xCF = _
    rw [p7, e6, e5, e4, e3, e2, e1, p1]
    exact php_plp_bits _ _

theorem php_plp_restores_witness :
    ∃ s2, host_run 7 (Sys.mk { (w65816_init false).1 with S := 0x01FF, P := 0xC3 }
        (qpins 0 0x08 true true true 0).word (fun _ => 0x28)) = some s2 ∧
      s2.cpu.P &&& 0xCF = 0xC3 ∧ s2.cpu.S = 0x01FF :=
  match php_plp_restores (Sys.mk { (w65816_init false).1 with S := 0x01FF, P := 0xC3 }
      (qpins 0 0x08 true true true 0).word (fun _ => 0x28)) 0 0 true rfl (by decide) (by decide)
      (by decide) (by decide) (by decide) (by decide) (by decide) with
  | ⟨_, s2, h, _, _, _, hP, hS⟩ => ⟨s2, h, hP, hS⟩

/-- C17: for every state whose sync fetch delivers PHA (0x48), with no interrupt pending, C and S
within 16 bits, S in page 1 when the emulation flag is set, the opcode PLA (0x68) after it
and the stack slot `0x0100 | (S & 0xFF)` distinct from the address of that opcode: the host
loop fetches PLA at its third iteration and the opcode after PLA at its seventh; then the
whole accumulator C, hence A with an 8-bit accumulator and C with a 16-bit one, and S have
their values from before PHA. -/
theorem pha_pla_restores (s : Sys) (a bank : Nat) (rw : Bool)
    (hpins : s.pins = (qpins a 0x48 rw true true bank).word)
    (hb : s.cpu.brk_flags = 0) (hi : s.cpu.irq_pip = 0) (hn : s.cpu.nmi_pip = 0)
    (hS : s.cpu.S < 65536) (hSe : s.cpu.emulation ≠ 0 → s.cpu.S / 256 = 1) (hC : s.cpu.C < 65536)
    (hmem : s.mem ((s.cpu.PC + 1) % 65536 + bank % 256 * 65536) % 256 = 0x68)
    (hne : (s.cpu.PC + 1) % 65536 ≠ 0x0100 ||| (s.cpu.S &&& 0xFF)) :
    (∃ s1, host_run 3 s = some s1 ∧
      s1.pins = (qpins ((s.cpu.PC + 1) % 65536) 0x68 true true true bank).word) ∧
    ∃ s2, host_run 7 s = some s2 ∧
      (s2.pins &&& W65816_VPA ≠ 0 ∧ s2.pins &&& W65816_VDA ≠ 0) ∧
      _GA s2.pins = (s.cpu.PC + 2) % 65536 ∧ s2.cpu.PC = (s.cpu.PC + 2) % 65536 ∧
      s2.cpu.C = s.cpu.C ∧ (_a8 s.cpu = true → _A s2.cpu = _A s.cpu) ∧
      (_a8 s.cpu = false → _C s2.cpu = _C s.cpu) ∧ s2.cpu.S = s.cpu.S := by
  obtain ⟨c, p, mem⟩ := s
  replace hpins : p = (qpins a 0x48 rw true true bank).word := hpins
  replace hb : c.brk_flags = 0 := hb
  replace hi : c.irq_pip = 0 := hi
  replace hn : c.nmi_pip = 0 := hn
  replace hS : c.S < 65536 := hS
  replace hSe : c.emulation ≠ 0 → c.S / 256 = 1 := hSe
  replace hC : c.C < 65536 := hC
  replace hmem : mem ((c.PC + 1) % 65536 + bank % 256 * 65536) % 256 = 0x68 := hmem
  replace hne : (c.PC + 1) % 65536 ≠ 0x0100 ||| (c.S &&& 0xFF) := hne
  show (∃ s1, host_run 3 (Sys.mk c p mem) = some s1 ∧
      s1.pins = (qpins ((c.PC + 1) % 65536) 0x68 true true true bank).word) ∧
    ∃ s2, host_run 7 (Sys.mk c p mem) = some s2 ∧
      (s2.pins &&& W65816_VPA ≠ 0 ∧ s2.pins &&& W65816_VDA ≠ 0) ∧
      _GA s2.pins = (c.PC + 2) % 65536 ∧ s2.cpu.PC = (c.PC + 2) % 65536 ∧
      s2.cpu.C = c.C ∧ (_a8 c = true → _A s2.cpu = _A c) ∧
      (_a8 c = false → _C s2.cpu = _C c) ∧ s2.cpu.S = c.S
  rw [hpins]
  rw [and_FF, or_0100] at hne
  have r0 := host_run_zero (Sys.mk c (qpins a 0x48 rw true true bank).word mem)
  -- the push: sync tick
  obtain ⟨c1, t0, i1, pc1, a1, p1, s1, e1, b1⟩ := pha_t0 c a bank rw hb hi hn
  obtain ⟨q1, n1⟩ := tick_pips_q _ _ _ _ _ _ _ _ _ t0 hi hn
  have r1 := host_run_step _ _ _ _ r0 (host_step_qread _ _ mem _ _ _ _ _ _ t0)
  rw [fin_S_id _ _ hSe] at s1
  -- the push: write to the stack page
  obtain ⟨c2, t1, i2, pc2, a2, p2, s2, e2, b2⟩ := pha_t1 c1 _ _ bank true false false rfl i1
  obtain ⟨q2, n2⟩ := tick_pips_q _ _ _ _ _ _ _ _ _ t1 q1 n1
  have r2 := host_run_step _ _ _ _ r1 (host_step_qwrite _ _ mem _ _ _ _ _ _ t1)
  have hlo1 : _S c1 = c.S % 256 := by rw [_S, s1, and_FF]
  rw [hlo1, or_0100] at r2 t1
  rw [hlo1, s1, set_S_val _ _ hS, e1] at s2
  have hS2 := S_push_lt c.S hS
  have hSe2 := S_push_page _ _ hSe
  rw [fin_S_id _ _ hSe2] at s2
  -- the push: fetch of the next opcode
  obtain ⟨c3, t2, i3, pc3, a3, p3, s3, e3, b3⟩ := pha_t2 c2 _ _ bank false false true rfl i2
  obtain ⟨q3, n3⟩ := tick_pips_q _ _ _ _ _ _ _ _ _ t2 q2 n2
  have r3 := host_run_step _ _ _ _ r2 (host_step_qread _ _ _ _ _ _ _ _ _ t2)
  rw [pc2, pc1] at r3 t2
  rw [if_neg (code_addr_ne _ _ _ hne), Nat.mod_mod, hmem] at r3
  rw [s2, e2, e1, fin_S_id _ _ hSe2] at s3
  refine ⟨⟨_, r3, rfl⟩, ?_⟩
  -- the pull: sync tick
  obtain ⟨c4, t3, i4, pc4, a4, p4, s4, e4, b4⟩ :=
    pla_t0 c3 _ bank true (b3.trans (b2.trans b1)) q3 n3
  obtain ⟨q4, n4⟩ := tick_pips_q _ _ _ _ _ _ _ _ _ t3 q3 n3
  have r4 := host_run_step _ _ _ _ r3 (host_step_qread _ _ _ _ _ _ _ _ _ t3)
  rw [s3, e3, e2, e1, fin_S_id _ _ hSe2] at s4
  -- the pull: internal cycle
  obtain ⟨c5, t4, i5, pc5, a5, p5, s5, e5, b5⟩ := pla_t1 c4 _ _ bank true false false rfl i4
  obtain ⟨q5, n5⟩ := tick_pips_q _ _ _ _ _ _ _ _ _ t4 q4 n4
  have r5 := host_run_step _ _ _ _ r4 (host_step_qread _ _ _ _ _ _ _ _ _ t4)
  rw [s4, e4, e3, e2, e1, fin_S_id _ _ hSe2] at s5
  -- the pull: the stack page is addressed
  obtain ⟨c6, t5, i6, pc6, a6, p6, s6, e6, b6⟩ := pla_t2 c5 _ _ bank true false false rfl i5
  obtain ⟨q6, n6⟩ := tick_pips_q _ _ _ _ _ _ _ _ _ t5 q5 n5
  have r6 := host_run_step _ _ _ _ r5 (host_step_qread _ _ _ _ _ _ _ _ _ t5)
  have hlo5 : _S c5 = (c.S % 256 + 255) % 256 := by rw [_S, s5, and_FF, S_push_lo]
  have hlo6 : _S (set_S c5 (_S c5 + 1)) = c.S % 256 := by
    rw [hlo5]
    show ((c5.S &&& 0xFF00) ||| (((c.S % 256 + 255) % 256 + 1) &&& 0xFF)) &&& 0xFF = _
    rw [s5, set_S_val _ _ hS2, and_FF, S_pull_lo]
  rw [hlo6, or_0100] at r6 t5
  rw [if_pos rfl] at r6
  rw [hlo5, s5, set_S_val _ _ hS2, e5, e4, e3, e2, e1] at s6
  rw [S_pull_val, fin_S_id _ _ hSe] at s6
  -- the pull: the register is loaded
  obtain ⟨c7, t6, i7, pc7, a7, p7, s7, e7, b7⟩ := pla_t3 c6 _ _ bank true false true rfl i6
  have r7 := host_run_step _ _ _ _ r6 (host_step_qread _ _ _ _ _ _ _ _ _ t6)
  rw [s6, e6, e5, e4, e3, e2, e1, fin_S_id _ _ hSe] at s7
  have hpc : c6.PC = (c.PC + 2) % 65536 := by
    rw [pc6, pc5, pc4, pc3, pc2, pc1, pc_two]
  refine ⟨_, r7, (sync_qpins _ _ _ _ _ _).2 ⟨rfl, rfl⟩, ?_, ?_, ?_⟩
  · rw [GA_word]
    show c6.PC % 65536 = _
    rw [hpc, Nat.mod_mod]
  · show c7.PC = _
    rw [pc7, hpc]
  · have hC7 : c7.C = c.C := by
      rw [a7, a6, a5, a4, a3, a2, a1]
      show (c.C &&& 0xFF00) ||| (((c1.C &&& 0xFF) % 256 % 256 % 256) &&& 0xFF) = c.C
      rw [a1]
      exact set_A_restore c.C hC
    exact ⟨hC7, fun _ => congrArg (fun x => x &&& 0xFF) hC7, fun _ => hC7, s7⟩

theorem pha_pla_restores_witness :
    ∃ s2, host_run 7 (Sys.mk { (w65816_init false).1 with S := 0x01FF, C := 0x1234 }
        (qpins 0 0x48 true true true 0).word (fun _ => 0x68)) = some s2 ∧
      s2.cpu.C = 0x1234 ∧ s2.cpu.S = 0x01FF :=
  match pha_pla_restores (Sys.mk { (w65816_init false).1 with S := 0x01FF, C := 0x1234 }
      (qpins 0 0x48 true true true 0).word (fun _ => 0x68)) 0 0 true rfl (by decide) (by decide)
      (by decide) (by decide) (by decide) (by decide) (by decide) (by decide) with
  | ⟨_, s2, h, _, _, _, hC, _, _, hS⟩ => ⟨s2, h, hC, hS⟩

/-! ## Instructions under the host loop -/

/-- The reset sequence under the host loop: after seven iterations the opcode at the reset
vector is on the data bus of a sync fetch, no interrupt is pending. -/
theorem run_reset (b : Bool) (mem : Mem) :
    ∃ c, host_run 7 (host_init b mem) =
        some (Sys.mk c (qpins ((mem 0xFFFC % 256) ||| ((mem 0xFFFD % 256) <<< 8))
          (mem (((mem 0xFFFC % 256) ||| ((mem 0xFFFD % 256) <<< 8)) % 65536 + 0 % 256 * 65536) % 256)
          true true true 0).word mem) ∧
      c.PC = (mem 0xFFFC % 256) ||| ((mem 0xFFFD % 256) <<< 8) ∧ c.brk_flags = 0 ∧
      c.irq_pip = 0 ∧ c.nmi_pip = 0 := by
  obtain ⟨i1, i2, i3, i4, i5⟩ := init_fields b
  have r0 : host_run 0 (host_init b mem) = some _ := congrArg some (init_sys b mem)
  obtain ⟨c1, t0, f1, g1, -⟩ := reset_tick0 (w65816_init b).1 0 0 0 true i3 i4 i5
  obtain ⟨q1, n1⟩ := tick_pips_zero _ _ _ rfl rfl rfl t0 i4 i5
  have r1 := host_run_step _ _ _ _ r0 (host_step_qread _ _ mem _ _ _ _ _ _ t0)
  obtain ⟨c2, t1, f2, g2⟩ := reset_tick1 c1 _ (mem _ % 256) 0 true false false rfl f1 g1
  obtain ⟨q2, n2⟩ := tick_pips_q _ _ _ _ _ _ _ _ _ t1 q1 n1
  have r2 := host_run_step _ _ _ _ r1 (host_step_qread _ _ mem _ _ _ _ _ _ t1)
  obtain ⟨c3, t2, f3, g3⟩ := reset_tick2 c2 _ (mem _ % 256) 0 true false true rfl f2 g2
  obtain ⟨q3, n3⟩ := tick_pips_q _ _ _ _ _ _ _ _ _ t2 q2 n2
  have r3 := host_run_step _ _ _ _ r2 (host_step_qread _ _ mem _ _ _ _ _ _ t2)
  obtain ⟨c4, t3, f4, g4⟩ := reset_tick3 c3 _ (mem _ % 256) 0 true false true rfl f3 g3
  obtain ⟨q4, n4⟩ := tick_pips_q _ _ _ _ _ _ _ _ _ t3 q3 n3
  have r4 := host_run_step _ _ _ _ r3 (host_step_qread _ _ mem _ _ _ _ _ _ t3)
  obtain ⟨c5, t4, f5, g5, b5⟩ := brk_tick4 c4 _ (mem _ % 256) 0 true false true rfl f4
  obtain ⟨q5, n5⟩ := tick_pips_q _ _ _ _ _ _ _ _ _ t4 q4 n4
  have r5 := host_run_step _ _ _ _ r4 (host_step_qread _ _ mem _ _ _ _ _ _ t4)
  obtain ⟨c6, t5, f6, g6, b6⟩ := brk_tick5 c5 _ (mem _ % 256) 0 true false true rfl f5
  obtain ⟨q6, n6⟩ := tick_pips_q _ _ _ _ _ _ _ _ _ t5 q5 n5
  have r6 := host_run_step _ _ _ _ r5 (host_step_qread _ _ mem _ _ _ _ _ _ t5)
  obtain ⟨c7, t6, f7, g7, b7⟩ :=
    brk_tick6 c6 c5.AD (mem (c5.AD % 65536 + 0 % 256 * 65536) % 256) 0 true false true rfl f6
  obtain ⟨q7, n7⟩ := tick_pips_q _ _ _ _ _ _ _ _ _ t6 q6 n6
  have r7 := host_run_step _ _ _ _ r6 (host_step_qread _ _ mem _ _ _ _ _ _ t6)
  have hvec : ((mem (c5.AD % 65536 + 0 % 256 * 65536) % 256 % 256) <<< 8 ||| c6.AD) % 65536 =
      (mem 0xFFFC % 256) ||| ((mem 0xFFFD % 256) <<< 8) := by
    rw [g6, g5, g4]
    exact vec_word _ _
  rw [hvec] at r7 g7
  exact ⟨c7, r7, g7, b7.trans (b6.trans b5), q7, n7⟩

/-! ### Bits of P across the opcodes -/

theorem fin_clc (e x : Nat) :
    (if e ≠ 0 then ((x &&& NOT32 0x1) % 256 ||| 0x20) % 256 else (x &&& NOT32 0x1) % 256) &&&
      W65816_CF = 0 := by
  apply (flag_eq _ 0).2
  split_ifs <;>
    simp only [Nat.testBit_or, Nat.testBit_and, testBit_mod256, testBit_NOT32] <;>
    simp only [Nat.testBit_to_div_mod, Nat.reducePow, Nat.reduceDiv, Nat.reduceMod,
      Nat.reduceLT, Nat.reduceEqDiff, decide_True, decide_False, Bool.true_and, Bool.and_true,
      Bool.false_and, Bool.and_false, Bool.or_false, Bool.false_or, Bool.or_true, Bool.true_or,
      Bool.not_true, Bool.not_false]

theorem fin_carry (e x : Nat) (h : x &&& W65816_CF = 0) :
    (if e ≠ 0 then (x ||| 0x20) % 256 else x) &&& W65816_CF = 0 := by
  have h0 := (flag_eq _ 0).1 h
  apply (flag_eq _ 0).2
  split_ifs
  · rw [testBit_mod256, Nat.testBit_or, h0]
    decide
  · exact h0

theorem fin_MF_clear (x d : Nat) (hd : d % 256 = 0x20) :
    (x &&& NOT32 (d % 256)) % 256 &&& W65816_MF = 0 := by
  rw [hd]
  apply (flag_eq _ 5).2
  simp only [Nat.testBit_or, Nat.testBit_and, testBit_mod256, testBit_NOT32]
  simp only [Nat.testBit_to_div_mod, Nat.reducePow, Nat.reduceDiv, Nat.reduceMod,
    Nat.reduceLT, Nat.reduceEqDiff, decide_True, decide_False, Bool.true_and, Bool.and_true,
    Bool.false_and, Bool.and_false, Bool.or_false, Bool.false_or, Bool.or_true, Bool.true_or,
    Bool.not_true, Bool.not_false]

theorem a8_false (c : w65816_t) (he : c.emulation = 0) (hm : c.P &&& W65816_MF = 0) :
    _a8 c = false := by
  rw [_a8, _E, he, hm]
  rfl

theorem a8_emu (c : w65816_t) (he : c.emulation ≠ 0) : _a8 c = true := by
  simp [_a8, _E, he]

theorem a8_MF (c : w65816_t) (hm : c.P &&& W65816_MF ≠ 0) : _a8 c = true := by
  rw [_a8, bne_iff_ne.2 hm, Bool.or_true]

/-- CLC under the host loop: two iterations, carry clear afterwards. -/
theorem run_clc (n : Nat) (s0 : Sys) (c : w65816_t) (mem : Mem) (a bank : Nat) (rw : Bool)
    (h : host_run n s0 = some (Sys.mk c (qpins a 0x18 rw true true bank).word mem))
    (hb : c.brk_flags = 0) (hi : c.irq_pip = 0) (hn : c.nmi_pip = 0) :
    ∃ c2, host_run (n + 2) s0 = some (Sys.mk c2 (qpins ((c.PC + 1) % 65536)
        (mem ((c.PC + 1) % 65536 % 65536 + bank % 256 * 65536) % 256) true true true bank).word mem) ∧
      c2.PC = (c.PC + 1) % 65536 ∧ c2.C = c.C ∧ c2.emulation = c.emulation ∧
      c2.P &&& W65816_CF = 0 ∧ c2.brk_flags = 0 ∧ c2.irq_pip = 0 ∧ c2.nmi_pip = 0 := by
  obtain ⟨c1, t0, i1, pc1, a1, p1, s1, e1, b1⟩ := clc_t0 c a bank rw hb hi hn
  obtain ⟨q1, n1⟩ := tick_pips_q _ _ _ _ _ _ _ _ _ t0 hi hn
  have r1 := host_run_step _ _ _ _ h (host_step_qread _ _ mem _ _ _ _ _ _ t0)
  obtain ⟨c2, t1, i2, pc2, a2, p2, s2, e2, b2⟩ := clc_t1 c1 _ _ bank true false false rfl i1
  obtain ⟨q2, n2⟩ := tick_pips_q _ _ _ _ _ _ _ _ _ t1 q1 n1
  have r2 := host_run_step _ _ _ _ r1 (host_step_qread _ _ mem _ _ _ _ _ _ t1)
  rw [pc1] at r2
  refine ⟨c2, r2, pc2.trans pc1, a2.trans a1, e2.trans e1, ?_, b2.trans b1, q2, n2⟩
  rw [p2]
  exact fin_clc _ _

theorem xce_sets_MF (c : w65816_t) (he : c.emulation ≠ 0) (h0 : (c.P &&& W65816_CF) % 256 = 0) :
    (_w65816_xce c).P &&& W65816_MF ≠ 0 := by
  rw [xce_P, if_pos h0, if_pos he]
  apply (flag_ne _ 5).2
  simp only [W65816_CF, W65816_MF, W65816_XF, Nat.testBit_or, Nat.testBit_and, testBit_mod256,
    testBit_NOT32, Nat.reduceShiftLeft, Nat.reduceOr]
  simp only [Nat.testBit_to_div_mod, Nat.reducePow, Nat.reduceDiv, Nat.reduceMod, Nat.reduceLT,
    Nat.reduceEqDiff, decide_True, decide_False, Bool.true_and, Bool.and_true, Bool.false_and,
    Bool.and_false, Bool.or_false, Bool.false_or, Bool.or_true, Bool.true_or, Bool.not_true,
    Bool.not_false]

theorem a8_fin (c c1 : w65816_t) (e1 : c1.emulation = c.emulation)
    (p1 : c1.P = if c.emulation ≠ 0 then (c.P ||| 0x20) % 256 else c.P) : _a8 c1 = _a8 c := by
  rw [_a8, _a8, _E, _E, e1, p1]
  by_cases he : c.emulation = 0
  · rw [if_neg (not_not.2 he)]
  · rw [if_pos he, bne_iff_ne.2 he, Bool.true_or, Bool.true_or]

/-- XCE under the host loop: two iterations; executed with carry clear it leaves E = 0, and when
that leaves emulation mode the M flag is set, so the accumulator stays 8-bit. -/
theorem run_xce (n : Nat) (s0 : Sys) (c : w65816_t) (mem : Mem) (a bank : Nat) (rw : Bool)
    (h : host_run n s0 = some (Sys.mk c (qpins a 0xFB rw true true bank).word mem))
    (hb : c.brk_flags = 0) (hi : c.irq_pip = 0) (hn : c.nmi_pip = 0) :
    ∃ c2, host_run (n + 2) s0 = some (Sys.mk c2 (qpins ((c.PC + 1) % 65536)
        (mem ((c.PC + 1) % 65536 + bank % 256 * 65536) % 256) true true true bank).word mem) ∧
      c2.PC = (c.PC + 1) % 65536 ∧ c2.C = c.C ∧
      (c.P &&& W65816_CF = 0 → c2.emulation = 0) ∧
      (c.emulation ≠ 0 → c.P &&& W65816_CF = 0 → c2.P &&& W65816_MF ≠ 0) ∧
      c2.brk_flags = 0 ∧ c2.irq_pip = 0 ∧ c2.nmi_pip = 0 := by
  obtain ⟨c1, t0, i1, pc1, a1, p1, s1, e1, b1⟩ := xce_t0 c a bank rw hb hi hn
  obtain ⟨q1, n1⟩ := tick_pips_q _ _ _ _ _ _ _ _ _ t0 hi hn
  have r1 := host_run_step _ _ _ _ h (host_step_qread _ _ mem _ _ _ _ _ _ t0)
  obtain ⟨c2, t1, i2, pc2, a2, p2, s2, e2, b2⟩ := xce_t1 c1 _ _ bank true false false rfl i1
  obtain ⟨q2, n2⟩ := tick_pips_q _ _ _ _ _ _ _ _ _ t1 q1 n1
  have r2 := host_run_step _ _ _ _ r1 (host_step_qread _ _ mem _ _ _ _ _ _ t1)
  rw [pc1, Nat.mod_mod] at r2
  have hcar : c.P &&& W65816_CF = 0 → (c1.P &&& W65816_CF) % 256 = 0 := by
    intro hc
    rw [p1, fin_carry _ _ hc]
  have hem : c.P &&& W65816_CF = 0 → c2.emulation = 0 := by
    intro hc
    rw [e2, xce_emulation, hcar hc]
  refine ⟨c2, r2, pc2.trans pc1, a2.trans a1, hem, ?_, b2.trans b1, q2, n2⟩
  intro he hc
  have h0 : (_w65816_xce c1).emulation = 0 := by rw [xce_emulation, hcar hc]
  rw [p2, h0, if_neg (fun h => h rfl)]
  exact xce_sets_MF c1 (by rw [e1]; exact he) (hcar hc)

/-- REP # under the host loop: three iterations; in native mode the bits of the operand are
cleared in P. -/
theorem run_rep (n : Nat) (s0 : Sys) (c : w65816_t) (mem : Mem) (a bank : Nat) (rw : Bool)
    (h : host_run n s0 = some (Sys.mk c (qpins a 0xC2 rw true true bank).word mem))
    (hb : c.brk_flags = 0) (hi : c.irq_pip = 0) (hn : c.nmi_pip = 0) :
    ∃ c3, host_run (n + 3) s0 = some (Sys.mk c3 (qpins ((c.PC + 2) % 65536)
        (mem ((c.PC + 2) % 65536 + bank % 256 * 65536) % 256) true true true bank).word mem) ∧
      c3.PC = (c.PC + 2) % 65536 ∧ c3.C = c.C ∧ c3.emulation = c.emulation ∧
      (c.emulation = 0 → c3.P =
        (c.P &&& NOT32 (mem ((c.PC + 1) % 65536 + bank % 256 * 65536) % 256)) % 256) ∧
      c3.brk_flags = 0 ∧ c3.irq_pip = 0 ∧ c3.nmi_pip = 0 := by
  obtain ⟨c1, t0, i1, pc1, a1, p1, s1, e1, b1⟩ := rep_t0 c a bank rw hb hi hn
  obtain ⟨q1, n1⟩ := tick_pips_q _ _ _ _ _ _ _ _ _ t0 hi hn
  have r1 := host_run_step _ _ _ _ h (host_step_qread _ _ mem _ _ _ _ _ _ t0)
  obtain ⟨c2, t1, i2, pc2, a2, p2, s2, e2, b2⟩ := rep_t1 c1 _ _ bank true true false rfl i1
  obtain ⟨q2, n2⟩ := tick_pips_q _ _ _ _ _ _ _ _ _ t1 q1 n1
  have r2 := host_run_step _ _ _ _ r1 (host_step_qread _ _ mem _ _ _ _ _ _ t1)
  obtain ⟨c3, t2, i3, pc3, a3, p3, s3, e3, b3⟩ := rep_t2 c2 _ _ bank true false false rfl i2
  obtain ⟨q3, n3⟩ := tick_pips_q _ _ _ _ _ _ _ _ _ t2 q2 n2
  have r3 := host_run_step _ _ _ _ r2 (host_step_qread _ _ mem _ _ _ _ _ _ t2)
  rw [pc2, pc1, pc_two, Nat.mod_mod] at r3
  refine ⟨c3, r3, ?_, a3.trans (a2.trans a1), e3.trans (e2.trans e1), ?_,
    b3.trans (b2.trans b1), q3, n3⟩
  · rw [pc3, pc2, pc1, pc_two]
  · intro he
    rw [p3, e2, e1, if_neg (not_not.2 he), p2, e1, if_neg (not_not.2 he), p1,
      if_neg (not_not.2 he)]
    simp only [Nat.mod_mod]

theorem pc_three (x : Nat) :
    (((x + 1) % 65536 + 1) % 65536 + 1) % 65536 = (x + 3) % 65536 := by omega

theorem lda16_val (x lo hi : Nat) :
    (((x &&& 0xFF00) ||| (lo % 256 &&& 0xFF)) &&& 0xFF) ||| ((hi % 256 &&& 0xFF) <<< 8) =
      lo % 256 ||| ((hi % 256) <<< 8) := by
  rw [lo_of_or, and_FF, and_FF]
  simp only [Nat.mod_mod]

theorem nz16_MF (p v : Nat) (h : p &&& W65816_MF = 0) :
    ((p &&& NOT32 (W65816_NF ||| W65816_ZF)) |||
      (if v &&& 0xFFFF ≠ 0 then (v >>> 8) &&& W65816_NF else W65816_ZF)) % 256 &&& W65816_MF = 0 := by
  have h5 := (flag_eq _ 5).1 h
  apply (flag_eq _ 5).2
  split_ifs <;>
    simp only [W65816_NF, W65816_ZF, Nat.testBit_or, Nat.testBit_and, testBit_mod256,
      testBit_NOT32, h5, Nat.reduceShiftLeft, Nat.reduceOr] <;>
    simp only [Nat.testBit_to_div_mod, Nat.reducePow, Nat.reduceDiv, Nat.reduceMod, Nat.reduceLT,
      Nat.reduceEqDiff, decide_True, decide_False, Bool.true_and, Bool.and_true, Bool.false_and,
      Bool.and_false, Bool.or_false, Bool.false_or, Bool.or_true, Bool.true_or, Bool.not_true,
      Bool.not_false]

/-- LDA # under the host loop with a 16-bit accumulator (E = 0 and M = 0): three iterations,
both operand bytes are loaded into C and PC advances by 3. -/
theorem run_lda16 (n : Nat) (s0 : Sys) (c : w65816_t) (mem : Mem) (a bank : Nat) (rw : Bool)
    (h : host_run n s0 = some (Sys.mk c (qpins a 0xA9 rw true true bank).word mem))
    (hb : c.brk_flags = 0) (hi : c.irq_pip = 0) (hn : c.nmi_pip = 0)
    (he : c.emulation = 0) (hm : c.P &&& W65816_MF = 0) :
    (∃ c1 p1, host_tick n s0 = some (c1, p1) ∧ ¬ (p1 &&& W65816_VPA ≠ 0 ∧ p1 &&& W65816_VDA ≠ 0)) ∧
    (∃ c2 p2, host_tick (n + 1) s0 = some (c2, p2) ∧
      ¬ (p2 &&& W65816_VPA ≠ 0 ∧ p2 &&& W65816_VDA ≠ 0)) ∧
    ∃ c3, host_run (n + 3) s0 = some (Sys.mk c3 (qpins ((c.PC + 3) % 65536)
        (mem ((c.PC + 3) % 65536 + bank % 256 * 65536) % 256) true true true bank).word mem) ∧
      c3.PC = (c.PC + 3) % 65536 ∧
      c3.C = mem ((c.PC + 1) % 65536 + bank % 256 * 65536) % 256 |||
        ((mem ((c.PC + 2) % 65536 + bank % 256 * 65536) % 256) <<< 8) ∧
      c3.emulation = 0 ∧ c3.P &&& W65816_MF = 0 ∧
      c3.brk_flags = 0 ∧ c3.irq_pip = 0 ∧ c3.nmi_pip = 0 := by
  have hE : ¬ (c.emulation ≠ 0) := not_not.2 he
  obtain ⟨c1, t0, i1, pc1, a1, p1, s1, e1, b1⟩ := lda_t0 c a bank rw hb hi hn
  obtain ⟨q1, n1⟩ := tick_pips_q _ _ _ _ _ _ _ _ _ t0 hi hn
  have r1 := host_run_step _ _ _ _ h (host_step_qread _ _ mem _ _ _ _ _ _ t0)
  rw [if_neg hE] at p1
  have ha1 : _a8 c1 = false := a8_false c1 (e1.trans he) (by rw [p1]; exact hm)
  obtain ⟨c2, t1, i2, pc2, a2, p2, s2, e2, b2⟩ :=
    lda_t1_a16 c1 _ _ bank true true false rfl i1 ha1
  obtain ⟨q2, n2⟩ := tick_pips_q _ _ _ _ _ _ _ _ _ t1 q1 n1
  have r2 := host_run_step _ _ _ _ r1 (host_step_qread _ _ mem _ _ _ _ _ _ t1)
  rw [e1, if_neg hE, p1] at p2
  obtain ⟨c3, t2, i3, pc3, a3, p3, s3, e3, b3⟩ := lda_t2 c2 _ _ bank true true false rfl i2
  obtain ⟨q3, n3⟩ := tick_pips_q _ _ _ _ _ _ _ _ _ t2 q2 n2
  have r3 := host_run_step _ _ _ _ r2 (host_step_qread _ _ mem _ _ _ _ _ _ t2)
  rw [pc2, pc1, pc_three, Nat.mod_mod] at r3
  refine ⟨⟨_, _, (host_tick_of _ _ _ h).trans t0, ?_⟩, ⟨_, _, (host_tick_of _ _ _ r1).trans t1, ?_⟩,
    c3, r3, ?_, ?_, e3.trans (e2.trans (e1.trans he)), ?_, b3.trans (b2.trans b1), q3, n3⟩
  · rw [sync_qpins]; simp
  · rw [sync_qpins]; simp
  · rw [pc3, pc2, pc1, pc_three]
  · rw [a3, a2, a1, pc1, pc_two]
    simp only [Nat.mod_mod]
    exact lda16_val _ _ _
  · rw [p3, e2, e1, if_neg hE]
    exact nz16_MF _ _ (by show c2.P &&& W65816_MF = 0; rw [p2]; exact hm)

theorem lda8_A (x lo : Nat) : ((x &&& 0xFF00) ||| (lo % 256 &&& 0xFF)) &&& 0xFF = lo % 256 := by
  rw [lo_of_or, and_FF, Nat.mod_mod, Nat.mod_mod]

theorem lda8_B (x y : Nat) : ((x &&& 0xFF00) ||| (y &&& 0xFF)) &&& 0xFF00 = x &&& 0xFF00 := by
  apply Nat.eq_of_testBit_eq
  intro i
  simp only [Nat.testBit_and, Nat.testBit_or, testBit_FF, testBit_FF00]
  by_cases h1 : 8 ≤ i <;> by_cases h2 : i < 16 <;> by_cases h3 : i < 8 <;>
    first | omega | simp [h1, h2, h3]

/-- LDA # under the host loop with an 8-bit accumulator (E = 1 or M = 1): two iterations, one
operand byte is loaded into A, B is unchanged and PC advances by 2. -/
theorem run_lda8 (n : Nat) (s0 : Sys) (c : w65816_t) (mem : Mem) (a bank : Nat) (rw : Bool)
    (h : host_run n s0 = some (Sys.mk c (qpins a 0xA9 rw true true bank).word mem))
    (hb : c.brk_flags = 0) (hi : c.irq_pip = 0) (hn : c.nmi_pip = 0) (ha : _a8 c = true) :
    (∃ c1 p1, host_tick n s0 = some (c1, p1) ∧ ¬ (p1 &&& W65816_VPA ≠ 0 ∧ p1 &&& W65816_VDA ≠ 0)) ∧
    ∃ c2, host_run (n + 2) s0 = some (Sys.mk c2 (qpins ((c.PC + 2) % 65536)
        (mem ((c.PC + 2) % 65536 + bank % 256 * 65536) % 256) true true true bank).word mem) ∧
      c2.PC = (c.PC + 2) % 65536 ∧
      _A c2 = mem ((c.PC + 1) % 65536 + bank % 256 * 65536) % 256 ∧
      c2.C &&& 0xFF00 = c.C &&& 0xFF00 ∧ c2.emulation = c.emulation ∧
      c2.brk_flags = 0 ∧ c2.irq_pip = 0 ∧ c2.nmi_pip = 0 := by
  obtain ⟨c1, t0, i1, pc1, a1, p1, s1, e1, b1⟩ := lda_t0 c a bank rw hb hi hn
  obtain ⟨q1, n1⟩ := tick_pips_q _ _ _ _ _ _ _ _ _ t0 hi hn
  have r1 := host_run_step _ _ _ _ h (host_step_qread _ _ mem _ _ _ _ _ _ t0)
  have ha1 : _a8 c1 = true := (a8_fin c c1 e1 p1).trans ha
  obtain ⟨c2, t1, i2, pc2, a2, p2, s2, e2, b2⟩ :=
    lda_t1_a8 c1 _ _ bank true true false rfl i1 ha1
  obtain ⟨q2, n2⟩ := tick_pips_q _ _ _ _ _ _ _ _ _ t1 q1 n1
  have r2 := host_run_step _ _ _ _ r1 (host_step_qread _ _ mem _ _ _ _ _ _ t1)
  rw [pc1, pc_two, Nat.mod_mod] at r2
  refine ⟨⟨_, _, (host_tick_of _ _ _ h).trans t0, ?_⟩, c2, r2, ?_, ?_, ?_, e2.trans e1,
    b2.trans b1, q2, n2⟩
  · rw [sync_qpins]; simp
  · rw [pc2, pc1, pc_two]
  · rw [_A, a2]
    simp only [Nat.mod_mod]
    exact lda8_A _ _
  · rw [a2, a1]
    exact lda8_B _ _

/-- STA d under the host loop with a 16-bit accumulator (E = 0 and M = 0): four iterations; A is
written at the direct-page address given by the operand and B at the following address, both
in the bank on the pins. -/
theorem run_sta16 (n : Nat) (s0 : Sys) (c : w65816_t) (mem : Mem) (a bank : Nat) (rw : Bool)
    (h : host_run n s0 = some (Sys.mk c (qpins a 0x85 rw true true bank).word mem))
    (hb : c.brk_flags = 0) (hi : c.irq_pip = 0) (hn : c.nmi_pip = 0)
    (he : c.emulation = 0) (hm : c.P &&& W65816_MF = 0) :
    ∃ c4 d, host_run (n + 4) s0 = some (Sys.mk c4 (qpins ((c.PC + 2) % 65536) d true true true
        bank).word
        (fun x =>
          if x = (mem ((c.PC + 1) % 65536 + bank % 256 * 65536) % 256 % 256 % 65536 +
            bank % 256 * 65536 + 1) % 4294967296 % 65536 + bank % 256 * 65536 then _B c % 256
          else if x = mem ((c.PC + 1) % 65536 + bank % 256 * 65536) % 256 % 256 % 65536 +
            bank % 256 * 65536 then _A c % 256
          else mem x)) ∧
      c4.PC = (c.PC + 2) % 65536 ∧ c4.C = c.C ∧ c4.emulation = 0 ∧
      c4.brk_flags = 0 ∧ c4.irq_pip = 0 ∧ c4.nmi_pip = 0 := by
  have hE : ¬ (c.emulation ≠ 0) := not_not.2 he
  obtain ⟨c1, t0, i1, pc1, a1, p1, s1, e1, b1⟩ := sta_t0 c a bank rw hb hi hn
  obtain ⟨q1, n1⟩ := tick_pips_q _ _ _ _ _ _ _ _ _ t0 hi hn
  have r1 := host_run_step _ _ _ _ h (host_step_qread _ _ mem _ _ _ _ _ _ t0)
  rw [Nat.mod_mod] at r1
  rw [if_neg hE] at p1
  obtain ⟨c2, t1, i2, pc2, a2, p2, s2, e2, b2⟩ := sta_t1 c1 _ _ bank true true false rfl i1
  obtain ⟨q2, n2⟩ := tick_pips_q _ _ _ _ _ _ _ _ _ t1 q1 n1
  have r2 := host_run_step _ _ _ _ r1 (host_step_qwrite _ _ mem _ _ _ _ _ _ t1)
  rw [e1, if_neg hE, p1] at p2
  have ha2 : _a8 c2 = false := a8_false c2 (e2.trans (e1.trans he)) (by rw [p2]; exact hm)
  obtain ⟨c3, t2, i3, pc3, a3, p3, s3, e3, b3⟩ :=
    sta_t2_a16 c2 _ _ bank false false true rfl i2 ha2
  obtain ⟨q3, n3⟩ := tick_pips_q _ _ _ _ _ _ _ _ _ t2 q2 n2
  have r3 := host_run_step _ _ _ _ r2 (host_step_qwrite _ _ _ _ _ _ _ _ _ t2)
  obtain ⟨c4, t3, i4, pc4, a4, p4, s4, e4, b4⟩ := sta_t3 c3 _ _ bank false false true rfl i3
  obtain ⟨q4, n4⟩ := tick_pips_q _ _ _ _ _ _ _ _ _ t3 q3 n3
  have r4 := host_run_step _ _ _ _ r3 (host_step_qread _ _ _ _ _ _ _ _ _ t3)
  have hA : _A c1 = _A c := by rw [_A, _A, a1]
  have hB : _B c2 = _B c := by rw [_B, _B, a2, a1]
  rw [hA, hB, pc3, pc2, pc1, pc_two] at r4
  refine ⟨c4, _, r4, ?_, a4.trans (a3.trans (a2.trans a1)),
    e4.trans (e3.trans (e2.trans (e1.trans he))), b4.trans (b3.trans (b2.trans b1)), q4, n4⟩
  rw [pc4, pc3, pc2, pc1, pc_two]

theorem bank0 (x : Nat) : x + 0 % 256 * 65536 = x := by omega

/-- C12: for every memory with reset vector 0x8000 and the bytes 18 FB C2 20 A9 34 12 85 00
(CLC; XCE; REP #$20; LDA #$1234; STA $00) at 0x8000, the host loop started from `w65816_init`
reaches after 21 iterations the sync fetch at 0x8009 that follows STA, with C = 0x1234,
mem[0] = 0x34 and mem[1] = 0x12. -/
theorem clc_xce_rep_lda_sta_program (b : Bool) (mem : Mem)
    (hv0 : mem 0xFFFC = 0x00) (hv1 : mem 0xFFFD = 0x80)
    (h0 : mem 0x8000 = 0x18) (h1 : mem 0x8001 = 0xFB) (h2 : mem 0x8002 = 0xC2)
    (h3 : mem 0x8003 = 0x20) (h4 : mem 0x8004 = 0xA9) (h5 : mem 0x8005 = 0x34)
    (h6 : mem 0x8006 = 0x12) (h7 : mem 0x8007 = 0x85) (h8 : mem 0x8008 = 0x00) :
    ∃ s, host_run 21 (host_init b mem) = some s ∧
      (s.pins &&& W65816_VPA ≠ 0 ∧ s.pins &&& W65816_VDA ≠ 0) ∧ _GA s.pins = 0x8009 ∧
      s.cpu.C = 0x1234 ∧ s.mem 0 = 0x34 ∧ s.mem 1 = 0x12 := by
  obtain ⟨c7, r7, pc7, b7, q7, n7⟩ := run_reset b mem
  have ev : (0x00 % 256) ||| ((0x80 % 256) <<< 8) = 0x8000 := by decide
  rw [hv0, hv1, ev] at r7 pc7
  rw [show (0x8000 : Nat) % 65536 = 0x8000 from rfl, bank0, h0,
    show (0x18 : Nat) % 256 = 0x18 from rfl] at r7
  -- CLC
  obtain ⟨c9, r9, pc9, a9, e9, cf9, b9, q9, n9⟩ := run_clc 7 _ c7 mem _ 0 true r7 b7 q7 n7
  rw [pc7, show ((0x8000 : Nat) + 1) % 65536 = 0x8001 from rfl] at r9 pc9
  rw [bank0, h1, show (0xFB : Nat) % 256 = 0xFB from rfl] at r9
  -- XCE
  obtain ⟨c11, r11, pc11, a11, e11, m11, b11, q11, n11⟩ :=
    run_xce (7 + 2) _ c9 mem _ 0 true r9 b9 q9 n9
  rw [pc9, show ((0x8001 : Nat) + 1) % 65536 = 0x8002 from rfl] at r11 pc11
  rw [bank0, h2, show (0xC2 : Nat) % 256 = 0xC2 from rfl] at r11
  have he11 := e11 cf9
  -- REP #$20
  obtain ⟨c14, r14, pc14, a14, e14, p14, b14, q14, n14⟩ :=
    run_rep (7 + 2 + 2) _ c11 mem _ 0 true r11 b11 q11 n11
  rw [pc11, show ((0x8002 : Nat) + 2) % 65536 = 0x8004 from rfl] at r14 pc14
  rw [bank0, h4, show (0xA9 : Nat) % 256 = 0xA9 from rfl] at r14
  have hM14 : c14.P &&& W65816_MF = 0 := by
    rw [p14 he11, pc11, show ((0x8002 : Nat) + 1) % 65536 = 0x8003 from rfl, bank0, h3]
    exact fin_MF_clear _ _ rfl
  -- LDA #$1234
  obtain ⟨-, -, c17, r17, pc17, a17, e17, m17, b17, q17, n17⟩ :=
    run_lda16 (7 + 2 + 2 + 3) _ c14 mem _ 0 true r14 b14 q14 n14 (e14.trans he11) hM14
  rw [pc14, show ((0x8004 : Nat) + 3) % 65536 = 0x8007 from rfl] at r17 pc17
  rw [bank0, h7, show (0x85 : Nat) % 256 = 0x85 from rfl] at r17
  rw [pc14, show ((0x8004 : Nat) + 1) % 65536 = 0x8005 from rfl,
    show ((0x8004 : Nat) + 2) % 65536 = 0x8006 from rfl, bank0, bank0, h5, h6,
    show (0x34 % 256 ||| (0x12 % 256) <<< 8 : Nat) = 0x1234 from by decide] at a17
  -- STA $00
  obtain ⟨c21, d, r21, pc21, a21, e21, b21, q21, n21⟩ :=
    run_sta16 (7 + 2 + 2 + 3 + 3) _ c17 mem _ 0 true r17 b17 q17 n17 e17 m17
  rw [pc17, show ((0x8007 : Nat) + 2) % 65536 = 0x8009 from rfl] at r21 pc21
  refine ⟨_, r21, (sync_qpins _ _ _ _ _ _).2 ⟨rfl, rfl⟩, ?_, a21.trans a17, ?_, ?_⟩
  · rw [GA_word]
    rfl
  · show (if 0 = _ then _ else if 0 = _ then _ else _) = 0x34
    rw [show ((0x8007 : Nat) + 1) % 65536 = 0x8008 from rfl, bank0, h8, if_neg (by decide),
      if_pos (by decide), _A, a17]
    rfl
  · show (if 1 = _ then _ else _) = 0x12
    rw [show ((0x8007 : Nat) + 1) % 65536 = 0x8008 from rfl, bank0, h8, if_pos (by decide), _B,
      a17]
    rfl

theorem clc_xce_rep_lda_sta_program_witness :
    ∃ s, host_run 21 (host_init false (fun a => if a = 0xFFFC then 0x00 else
        if a = 0xFFFD then 0x80 else if a = 0x8000 then 0x18 else if a = 0x8001 then 0xFB else
        if a = 0x8002 then 0xC2 else if a = 0x8003 then 0x20 else if a = 0x8004 then 0xA9 else
        if a = 0x8005 then 0x34 else if a = 0x8006 then 0x12 else if a = 0x8007 then 0x85 else
        if a = 0x8008 then 0x00 else 0xEA)) = some s ∧
      (s.pins &&& W65816_VPA ≠ 0 ∧ s.pins &&& W65816_VDA ≠ 0) ∧ _GA s.pins = 0x8009 ∧
      s.cpu.C = 0x1234 ∧ s.mem 0 = 0x34 ∧ s.mem 1 = 0x12 :=
  clc_xce_rep_lda_sta_program false _ rfl rfl rfl rfl rfl rfl rfl rfl rfl rfl rfl

/-! ## The operand width of LDA # -/

/-- C13 (counterexample): from `w65816_init` with reset vector 0x8000 and CLC; XCE; LDA #$34 at
0x8000 (bytes 18 FB A9 34 12), XCE is fetched after 9 iterations with E = 1 and carry clear and
leaves E = 0; the LDA # fetched at 0x8002 then takes two ticks, consumes one operand byte and the
next opcode is fetched at 0x8004 with C = 0x0034.  With REP #$20; LDA #$34 at 0x8000 (bytes
C2 20 A9 34 12), executed in emulation mode after the reset, REP #$20 has completed after 10
iterations and the LDA # fetched at 0x8002 again consumes one operand byte. -/
theorem lda_after_xce_takes_one_operand_byte :
    (∃ s, host_run 9 (host_init false (fun a => if a = 0xFFFC then 0x00 else
          if a = 0xFFFD then 0x80 else if a = 0x8000 then 0x18 else if a = 0x8001 then 0xFB else
          if a = 0x8002 then 0xA9 else if a = 0x8003 then 0x34 else if a = 0x8004 then 0x12 else
          0xEA)) = some s ∧
        (s.pins &&& W65816_VPA ≠ 0 ∧ s.pins &&& W65816_VDA ≠ 0) ∧ _GD s.pins = 0xFB ∧
        s.cpu.emulation = 1 ∧ s.cpu.P &&& W65816_CF = 0 ∧
        ∃ s1, host_run 2 s = some s1 ∧
          (s1.pins &&& W65816_VPA ≠ 0 ∧ s1.pins &&& W65816_VDA ≠ 0) ∧ _GA s1.pins = 0x8002 ∧
          _GD s1.pins = 0xA9 ∧ s1.cpu.emulation = 0 ∧
          ∃ s2, host_run 2 s1 = some s2 ∧
            (s2.pins &&& W65816_VPA ≠ 0 ∧ s2.pins &&& W65816_VDA ≠ 0) ∧
            _GA s2.pins = 0x8004 ∧ s2.cpu.PC = 0x8004 ∧ s2.cpu.C = 0x0034) ∧
    ∃ s, host_run 7 (host_init false (fun a => if a = 0xFFFC then 0x00 else
          if a = 0xFFFD then 0x80 else if a = 0x8000 then 0xC2 else if a = 0x8001 then 0x20 else
          if a = 0x8002 then 0xA9 else if a = 0x8003 then 0x34 else if a = 0x8004 then 0x12 else
          0xEA)) = some s ∧
        (s.pins &&& W65816_VPA ≠ 0 ∧ s.pins &&& W65816_VDA ≠ 0) ∧ _GD s.pins = 0xC2 ∧
        ∃ s1, host_run 3 s = some s1 ∧
          (s1.pins &&& W65816_VPA ≠ 0 ∧ s1.pins &&& W65816_VDA ≠ 0) ∧ _GA s1.pins = 0x8002 ∧
          _GD s1.pins = 0xA9 ∧
          ∃ s2, host_run 2 s1 = some s2 ∧
            (s2.pins &&& W65816_VPA ≠ 0 ∧ s2.pins &&& W65816_VDA ≠ 0) ∧
            _GA s2.pins = 0x8004 ∧ s2.cpu.PC = 0x8004 ∧ s2.cpu.C = 0x0034 :=
  ⟨⟨(host_run 9 _).get (by decide), (Option.some_get _).symm, by decide, by decide, by decide,
      by decide, (host_run 2 _).get (by decide), (Option.some_get _).symm, by decide, by decide,
      by decide, by decide, (host_run 2 _).get (by decide), (Option.some_get _).symm, by decide,
      by decide, by decide, by decide⟩,
    (host_run 7 _).get (by decide), (Option.some_get _).symm, by decide, by decide,
    (host_run 3 _).get (by decide), (Option.some_get _).symm, by decide, by decide, by decide,
    (host_run 2 _).get (by decide), (Option.some_get _).symm, by decide, by decide, by decide,
    by decide⟩

/-- C13 (amended): LDA # (0xA9) fetched with no interrupt pending consumes two operand bytes
exactly when the accumulator is 16-bit at its fetch, that is E = 0 and M = 0: it then takes
three ticks, loads C from the two bytes after the opcode and advances PC by 3.  With E = 1 or
M = 1 it takes two ticks, loads A from the one byte after the opcode, leaves the high byte of C
and advances PC by 2.  REP # with operand 0x20 completes in three ticks, keeps E and in
native mode leaves M = 0.  XCE executed with E = 1 and carry clear completes in two ticks and
leaves E = 0 with M = 1. -/
theorem lda_imm_operand_width :
    (∀ (s : Sys) (a bank : Nat) (rw : Bool),
      s.pins = (qpins a 0xA9 rw true true bank).word →
      s.cpu.brk_flags = 0 → s.cpu.irq_pip = 0 → s.cpu.nmi_pip = 0 →
      s.cpu.emulation = 0 → s.cpu.P &&& W65816_MF = 0 →
      (∀ k, k < 2 → ∃ r, host_tick k s = some r ∧
        ¬ (r.2 &&& W65816_VPA ≠ 0 ∧ r.2 &&& W65816_VDA ≠ 0)) ∧
      ∃ s3, host_run 3 s = some s3 ∧
        (s3.pins &&& W65816_VPA ≠ 0 ∧ s3.pins &&& W65816_VDA ≠ 0) ∧
        _GA s3.pins = (s.cpu.PC + 3) % 65536 ∧ s3.cpu.PC = (s.cpu.PC + 3) % 65536 ∧
        s3.cpu.C = s.mem ((s.cpu.PC + 1) % 65536 + bank % 256 * 65536) % 256 |||
          ((s.mem ((s.cpu.PC + 2) % 65536 + bank % 256 * 65536) % 256) <<< 8)) ∧
    (∀ (s : Sys) (a bank : Nat) (rw : Bool),
      s.pins = (qpins a 0xA9 rw true true bank).word →
      s.cpu.brk_flags = 0 → s.cpu.irq_pip = 0 → s.cpu.nmi_pip = 0 →
      (s.cpu.emulation ≠ 0 ∨ s.cpu.P &&& W65816_MF ≠ 0) →
      (∃ r, host_tick 0 s = some r ∧ ¬ (r.2 &&& W65816_VPA ≠ 0 ∧ r.2 &&& W65816_VDA ≠ 0)) ∧
      ∃ s2, host_run 2 s = some s2 ∧
        (s2.pins &&& W65816_VPA ≠ 0 ∧ s2.pins &&& W65816_VDA ≠ 0) ∧
        _GA s2.pins = (s.cpu.PC + 2) % 65536 ∧ s2.cpu.PC = (s.cpu.PC + 2) % 65536 ∧
        _A s2.cpu = s.mem ((s.cpu.PC + 1) % 65536 + bank % 256 * 65536) % 256 ∧
        s2.cpu.C &&& 0xFF00 = s.cpu.C &&& 0xFF00) ∧
    (∀ (s : Sys) (a bank : Nat) (rw : Bool),
      s.pins = (qpins a 0xC2 rw true true bank).word →
      s.cpu.brk_flags = 0 → s.cpu.irq_pip = 0 → s.cpu.nmi_pip = 0 →
      s.mem ((s.cpu.PC + 1) % 65536 + bank % 256 * 65536) % 256 = 0x20 →
      ∃ s3, host_run 3 s = some s3 ∧
        s3.pins = (qpins ((s.cpu.PC + 2) % 65536)
          (s.mem ((s.cpu.PC + 2) % 65536 + bank % 256 * 65536) % 256) true true true bank).word ∧
        s3.cpu.PC = (s.cpu.PC + 2) % 65536 ∧ s3.mem = s.mem ∧
        s3.cpu.brk_flags = 0 ∧ s3.cpu.irq_pip = 0 ∧ s3.cpu.nmi_pip = 0 ∧
        s3.cpu.emulation = s.cpu.emulation ∧
        (s.cpu.emulation = 0 → s3.cpu.P &&& W65816_MF = 0)) ∧
    (∀ (s : Sys) (a bank : Nat) (rw : Bool),
      s.pins = (qpins a 0xFB rw true true bank).word →
      s.cpu.brk_flags = 0 → s.cpu.irq_pip = 0 → s.cpu.nmi_pip = 0 →
      s.cpu.emulation ≠ 0 → s.cpu.P &&& W65816_CF = 0 →
      ∃ s2, host_run 2 s = some s2 ∧
        s2.pins = (qpins ((s.cpu.PC + 1) % 65536)
          (s.mem ((s.cpu.PC + 1) % 65536 + bank % 256 * 65536) % 256) true true true bank).word ∧
        s2.cpu.PC = (s.cpu.PC + 1) % 65536 ∧ s2.mem = s.mem ∧
        s2.cpu.brk_flags = 0 ∧ s2.cpu.irq_pip = 0 ∧ s2.cpu.nmi_pip = 0 ∧
        s2.cpu.emulation = 0 ∧ s2.cpu.P &&& W65816_MF ≠ 0) := by
  refine ⟨?_, ?_, ?_, ?_⟩
  · rintro ⟨c, p, mem⟩ a bank rw hp hb hi hn he hm
    replace hp : p = (qpins a 0xA9 rw true true bank).word := hp
    rw [hp]
    obtain ⟨⟨c1, p1, t1, s1⟩, ⟨c2, p2, t2, s2⟩, c3, r3, pc3, a3, -⟩ :=
      run_lda16 0 _ c mem a bank rw (host_run_zero _) hb hi hn he hm
    refine ⟨?_, _, r3, (sync_qpins _ _ _ _ _ _).2 ⟨rfl, rfl⟩, ?_, pc3, a3⟩
    · intro k hk
      interval_cases k
      · exact ⟨_, t1, s1⟩
      · exact ⟨_, t2, s2⟩
    · rw [GA_word]
      exact Nat.mod_mod _ _
  · rintro ⟨c, p, mem⟩ a bank rw hp hb hi hn ha
    replace hp : p = (qpins a 0xA9 rw true true bank).word := hp
    rw [hp]
    have ha8 : _a8 c = true := by
      rcases ha with h | h
      · exact a8_emu c h
      · exact a8_MF c h
    obtain ⟨⟨c1, p1, t1, s1⟩, c2, r2, pc2, a2, hB, -⟩ :=
      run_lda8 0 _ c mem a bank rw (host_run_zero _) hb hi hn ha8
    refine ⟨⟨_, t1, s1⟩, _, r2, (sync_qpins _ _ _ _ _ _).2 ⟨rfl, rfl⟩, ?_, pc2, a2, hB⟩
    rw [GA_word]
    exact Nat.mod_mod _ _
  · rintro ⟨c, p, mem⟩ a bank rw hp hb hi hn hop
    replace hp : p = (qpins a 0xC2 rw true true bank).word := hp
    rw [hp]
    replace hop : mem ((c.PC + 1) % 65536 + bank % 256 * 65536) % 256 = 0x20 := hop
    obtain ⟨c3, r3, pc3, a3, e3, p3, b3, q3, n3⟩ :=
      run_rep 0 _ c mem a bank rw (host_run_zero _) hb hi hn
    refine ⟨_, r3, rfl, pc3, rfl, b3, q3, n3, e3, ?_⟩
    intro he
    show c3.P &&& W65816_MF = 0
    rw [p3 he]
    exact fin_MF_clear _ _ hop
  · rintro ⟨c, p, mem⟩ a bank rw hp hb hi hn he hc
    replace hp : p = (qpins a 0xFB rw true true bank).word := hp
    rw [hp]
    obtain ⟨c2, r2, pc2, a2, e2, m2, b2, q2, n2⟩ :=
      run_xce 0 _ c mem a bank rw (host_run_zero _) hb hi hn
    exact ⟨_, r2, rfl, pc2, rfl, b2, q2, n2, e2 hc, m2 he hc⟩

theorem lda_imm_operand_width_witness :
    ∃ s3, host_run 3 (Sys.mk { (w65816_init false).1 with emulation := 0, P := 0x04 }
        (qpins 0 0xA9 true true true 0).word (fun a => if a = 1 then 0x34 else 0x12)) = some s3 ∧
      s3.cpu.PC = 3 ∧ s3.cpu.C = 0x1234 :=
  match (lda_imm_operand_width.1
      (Sys.mk { (w65816_init false).1 with emulation := 0, P := 0x04 }
        (qpins 0 0xA9 true true true 0).word (fun a => if a = 1 then 0x34 else 0x12))
      0 0 true rfl (by decide) (by decide) (by decide) (by decide) (by decide)).2 with
  | ⟨s3, h, _, _, hpc, hC⟩ => ⟨s3, h, hpc, hC⟩

/-! ## Conditional branches under the host loop -/

theorem and_bit_congr (x y k : Nat) (h : x.testBit k = y.testBit k) :
    x &&& (1 <<< k) = y &&& (1 <<< k) := by
  rw [and_bit, and_bit]
  rw [Nat.testBit_to_div_mod, Nat.testBit_to_div_mod] at h
  have hx := Nat.mod_two_eq_zero_or_one (x / 2 ^ k)
  have hy := Nat.mod_two_eq_zero_or_one (y / 2 ^ k)
  rcases hx with hx | hx <;> rcases hy with hy | hy <;> rw [hx, hy] at h ⊢ <;> simp at h

/-- The normalisation of P at the bottom of a tick does not change bit `k` for `k ≠ 5`. -/
theorem fin_P_bit (e p k : Nat) (hk : k < 8) (h5 : k ≠ 5) :
    (if e ≠ 0 then (p ||| 0x20) % 256 else p) &&& (1 <<< k) = p &&& (1 <<< k) := by
  apply and_bit_congr
  split_ifs
  · rw [testBit_mod256, Nat.testBit_or]
    interval_cases k <;> first | exact absurd rfl h5 | simp [Nat.testBit]
  · rfl

theorem SEXT8_signed (x v : Nat) (hv : v < 256) :
    (((x + SEXT8 v) % 65536 : Nat) : Int) =
      ((x : Int) + (if v < 128 then (v : Int) else (v : Int) - 256)) % 65536 := by
  unfold SEXT8
  have h80 : v &&& 0x80 ≠ 0 ↔ 128 ≤ v := by
    rw [flag_80, Nat.testBit_to_div_mod]
    simp only [decide_eq_true_eq]
    omega
  have hFF : v &&& 0xFF = v := by rw [and_FF]; omega
  rw [hFF]
  by_cases h : 128 ≤ v
  · rw [if_pos (h80.2 h), if_neg (by omega)]
    have e : 0xFF00 ||| v = 0xFF00 + v := or_eq_add 8 _ _ (by norm_num) (by norm_num; exact hv)
    rw [e]
    omega
  · rw [if_neg (fun h2 => h (h80.1 h2)), if_pos (by omega)]
    omega

/-- BPL (0x10) under the host loop: not taken 2 ticks, taken inside the page 3 ticks, taken
across a page boundary 4 ticks, up to the tick that issues the next opcode fetch. -/
theorem bpl_run (c : w65816_t) (mem : Mem) (a bank : Nat) (rw : Bool)
    (hb : c.brk_flags = 0) (hi : c.irq_pip = 0) (hn : c.nmi_pip = 0) :
    (c.P &&& 0x80 ≠ 0x00 →
      (∃ r, host_tick 0 (Sys.mk c (qpins a 0x10 rw true true bank).word mem) = some r ∧
        ¬ (r.2 &&& W65816_VPA ≠ 0 ∧ r.2 &&& W65816_VDA ≠ 0)) ∧
      ∃ r, host_tick 1 (Sys.mk c (qpins a 0x10 rw true true bank).word mem) = some r ∧
        (r.2 &&& W65816_VPA ≠ 0 ∧ r.2 &&& W65816_VDA ≠ 0) ∧
        _GA r.2 = (c.PC + 2) % 65536 ∧ r.1.PC = (c.PC + 2) % 65536) ∧
    (c.P &&& 0x80 = 0x00 →
      ((c.PC + 2) % 65536 + SEXT8 (mem ((c.PC + 1) % 65536 + bank % 256 * 65536) % 256)) % 65536 &&&
        0xFF00 = (c.PC + 2) % 65536 &&& 0xFF00 →
      (∀ k, k < 2 → ∃ r, host_tick k (Sys.mk c (qpins a 0x10 rw true true bank).word mem) = some r ∧
        ¬ (r.2 &&& W65816_VPA ≠ 0 ∧ r.2 &&& W65816_VDA ≠ 0)) ∧
      ∃ r, host_tick 2 (Sys.mk c (qpins a 0x10 rw true true bank).word mem) = some r ∧
        (r.2 &&& W65816_VPA ≠ 0 ∧ r.2 &&& W65816_VDA ≠ 0) ∧
        _GA r.2 = ((c.PC + 2) % 65536 +
          SEXT8 (mem ((c.PC + 1) % 65536 + bank % 256 * 65536) % 256)) % 65536 ∧
        r.1.PC = ((c.PC + 2) % 65536 +
          SEXT8 (mem ((c.PC + 1) % 65536 + bank % 256 * 65536) % 256)) % 65536) ∧
    (c.P &&& 0x80 = 0x00 →
      ((c.PC + 2) % 65536 + SEXT8 (mem ((c.PC + 1) % 65536 + bank % 256 * 65536) % 256)) % 65536 &&&
        0xFF00 ≠ (c.PC + 2) % 65536 &&& 0xFF00 →
      (∀ k, k < 3 → ∃ r, host_tick k (Sys.mk c (qpins a 0x10 rw true true bank).word mem) = some r ∧
        ¬ (r.2 &&& W65816_VPA ≠ 0 ∧ r.2 &&& W65816_VDA ≠ 0)) ∧
      ∃ r, host_tick 3 (Sys.mk c (qpins a 0x10 rw true true bank).word mem) = some r ∧
        (r.2 &&& W65816_VPA ≠ 0 ∧ r.2 &&& W65816_VDA ≠ 0) ∧
        _GA r.2 = ((c.PC + 2) % 65536 +
          SEXT8 (mem ((c.PC + 1) % 65536 + bank % 256 * 65536) % 256)) % 65536 ∧
        r.1.PC = ((c.PC + 2) % 65536 +
          SEXT8 (mem ((c.PC + 1) % 65536 + bank % 256 * 65536) % 256)) % 65536) := by
  have r0 := host_run_zero (Sys.mk c (qpins a 0x10 rw true true bank).word mem)
  obtain ⟨c1, t0, i1, pc1, a1, p1, s1, e1, b1, d1⟩ := bpl_t0 c a bank rw hb hi hn
  have r1 := host_run_step _ _ _ _ r0 (host_step_qread _ _ mem _ _ _ _ _ _ t0)
  have hP1 : c1.P &&& 0x80 = c.P &&& 0x80 := by
    rw [p1]
    exact fin_P_bit _ _ 7 (by norm_num) (by norm_num)
  rw [pc_two] at pc1
  rw [Nat.mod_mod] at r1
  have h0 : ∃ r, host_tick 0 (Sys.mk c (qpins a 0x10 rw true true bank).word mem) = some r ∧
      ¬ (r.2 &&& W65816_VPA ≠ 0 ∧ r.2 &&& W65816_VDA ≠ 0) :=
    ⟨_, (host_tick_of _ _ _ r0).trans t0, by rw [sync_qpins]; simp⟩
  refine ⟨?_, ?_, ?_⟩
  · intro hP
    obtain ⟨c2, t1, i2, pc2, a2, p2, s2, e2, b2, d2⟩ :=
      bpl_t1_nt c1 _ _ bank true true false rfl i1 (by rw [hP1]; exact hP)
    refine ⟨h0, _, (host_tick_of _ _ _ r1).trans t1, (sync_qpins _ _ _ _ _ _).2 ⟨rfl, rfl⟩, ?_, ?_⟩
    · rw [GA_word]
      show c1.PC % 65536 = _
      rw [pc1, Nat.mod_mod]
    · show c2.PC = _
      rw [pc2, pc1]
  · intro hP hpg
    obtain ⟨c2, t1, i2, pc2, a2, p2, s2, e2, b2, d2⟩ :=
      bpl_t1_tk c1 _ _ bank true true false rfl i1 (by rw [hP1]; exact hP)
    have r2 := host_run_step _ _ _ _ r1 (host_step_qread _ _ mem _ _ _ _ _ _ t1)
    rw [pc1, Nat.mod_mod] at d2
    obtain ⟨c3, t2, i3, pc3, a3, p3, s3, e3, b3, d3⟩ :=
      bpl_t2_same c2 _ _ bank true false false rfl i2 (by rw [d2, pc2, pc1]; exact hpg)
    refine ⟨?_, _, (host_tick_of _ _ _ r2).trans t2, (sync_qpins _ _ _ _ _ _).2 ⟨rfl, rfl⟩, ?_, ?_⟩
    · intro k hk
      interval_cases k
      · exact h0
      · exact ⟨_, (host_tick_of _ _ _ r1).trans t1, by rw [sync_qpins]; simp⟩
    · rw [GA_word]
      show c2.AD % 65536 = _
      rw [d2, Nat.mod_mod]
    · show c3.PC = _
      rw [pc3, d2]
  · intro hP hpg
    obtain ⟨c2, t1, i2, pc2, a2, p2, s2, e2, b2, d2⟩ :=
      bpl_t1_tk c1 _ _ bank true true false rfl i1 (by rw [hP1]; exact hP)
    have r2 := host_run_step _ _ _ _ r1 (host_step_qread _ _ mem _ _ _ _ _ _ t1)
    rw [pc1, Nat.mod_mod] at d2
    obtain ⟨c3, t2, i3, pc3, a3, p3, s3, e3, b3, d3⟩ :=
      bpl_t2_cross c2 _ _ bank true false false rfl i2 (by rw [d2, pc2, pc1]; exact hpg)
    have r3 := host_run_step _ _ _ _ r2 (host_step_qread _ _ mem _ _ _ _ _ _ t2)
    obtain ⟨c4, t3, i4, pc4, a4, p4, s4, e4, b4, d4⟩ :=
      bpl_t3 c3 _ _ bank true false false rfl i3
    refine ⟨?_, _, (host_tick_of _ _ _ r3).trans t3, (sync_qpins _ _ _ _ _ _).2 ⟨rfl, rfl⟩, ?_, ?_⟩
    · intro k hk
      interval_cases k
      · exact h0
      · exact ⟨_, (host_tick_of _ _ _ r1).trans t1, by rw [sync_qpins]; simp⟩
      · exact ⟨_, (host_tick_of _ _ _ r2).trans t2, by rw [sync_qpins]; simp⟩
    · rw [GA_word]
      show c3.AD % 65536 = _
      rw [d3, d2, Nat.mod_mod]
    · show c4.PC = _
      rw [pc4, d3, d2]

/-- BMI (0x30) under the host loop: not taken 2 ticks, taken inside the page 3 ticks, taken
across a page boundary 4 ticks, up to the tick that issues the next opcode fetch. -/
theorem bmi_run (c : w65816_t) (mem : Mem) (a bank : Nat) (rw : Bool)
    (hb : c.brk_flags = 0) (hi : c.irq_pip = 0) (hn : c.nmi_pip = 0) :
    (c.P &&& 0x80 ≠ 0x80 →
      (∃ r, host_tick 0 (Sys.mk c (qpins a 0x30 rw true true bank).word mem) = some r ∧
        ¬ (r.2 &&& W65816_VPA ≠ 0 ∧ r.2 &&& W65816_VDA ≠ 0)) ∧
      ∃ r, host_tick 1 (Sys.mk c (qpins a 0x30 rw true true bank).word mem) = some r ∧
        (r.2 &&& W65816_VPA ≠ 0 ∧ r.2 &&& W65816_VDA ≠ 0) ∧
        _GA r.2 = (c.PC + 2) % 65536 ∧ r.1.PC = (c.PC + 2) % 65536) ∧
    (c.P &&& 0x80 = 0x80 →
      ((c.PC + 2) % 65536 + SEXT8 (mem ((c.PC + 1) % 65536 + bank % 256 * 65536) % 256)) % 65536 &&&
        0xFF00 = (c.PC + 2) % 65536 &&& 0xFF00 →
      (∀ k, k < 2 → ∃ r, host_tick k (Sys.mk c (qpins a 0x30 rw true true bank).word mem) = some r ∧
        ¬ (r.2 &&& W65816_VPA ≠ 0 ∧ r.2 &&& W65816_VDA ≠ 0)) ∧
      ∃ r, host_tick 2 (Sys.mk c (qpins a 0x30 rw true true bank).word mem) = some r ∧
        (r.2 &&& W65816_VPA ≠ 0 ∧ r.2 &&& W65816_VDA ≠ 0) ∧
        _GA r.2 = ((c.PC + 2) % 65536 +
          SEXT8 (mem ((c.PC + 1) % 65536 + bank % 256 * 65536) % 256)) % 65536 ∧
        r.1.PC = ((c.PC + 2) % 65536 +
          SEXT8 (mem ((c.PC + 1) % 65536 + bank % 256 * 65536) % 256)) % 65536) ∧
    (c.P &&& 0x80 = 0x80 →
      ((c.PC + 2) % 65536 + SEXT8 (mem ((c.PC + 1) % 65536 + bank % 256 * 65536) % 256)) % 65536 &&&
        0xFF00 ≠ (c.PC + 2) % 65536 &&& 0xFF00 →
      (∀ k, k < 3 → ∃ r, host_tick k (Sys.mk c (qpins a 0x30 rw true true bank).word mem) = some r ∧
        ¬ (r.2 &&& W65816_VPA ≠ 0 ∧ r.2 &&& W65816_VDA ≠ 0)) ∧
      ∃ r, host_tick 3 (Sys.mk c (qpins a 0x30 rw true true bank).word mem) = some r ∧
        (r.2 &&& W65816_VPA ≠ 0 ∧ r.2 &&& W65816_VDA ≠ 0) ∧
        _GA r.2 = ((c.PC + 2) % 65536 +
          SEXT8 (mem ((c.PC + 1) % 65536 + bank % 256 * 65536) % 256)) % 65536 ∧
        r.1.PC = ((c.PC + 2) % 65536 +
          SEXT8 (mem ((c.PC + 1) % 65536 + bank % 256 * 65536) % 256)) % 65536) := by
  have r0 := host_run_zero (Sys.mk c (qpins a 0x30 rw true true bank).word mem)
  obtain ⟨c1, t0, i1, pc1, a1, p1, s1, e1, b1, d1⟩ := bmi_t0 c a bank rw hb hi hn
  have r1 := host_run_step _ _ _ _ r0 (host_step_qread _ _ mem _ _ _ _ _ _ t0)
  have hP1 : c1.P &&& 0x80 = c.P &&& 0x80 := by
    rw [p1]
    exact fin_P_bit _ _ 7 (by norm_num) (by norm_num)
  rw [pc_two] at pc1
  rw [Nat.mod_mod] at r1
  have h0 : ∃ r, host_tick 0 (Sys.mk c (qpins a 0x30 rw true true bank).word mem) = some r ∧
      ¬ (r.2 &&& W65816_VPA ≠ 0 ∧ r.2 &&& W65816_VDA ≠ 0) :=
    ⟨_, (host_tick_of _ _ _ r0).trans t0, by rw [sync_qpins]; simp⟩
  refine ⟨?_, ?_, ?_⟩
  · intro hP
    obtain ⟨c2, t1, i2, pc2, a2, p2, s2, e2, b2, d2⟩ :=
      bmi_t1_nt c1 _ _ bank true true false rfl i1 (by rw [hP1]; exact hP)
    refine ⟨h0, _, (host_tick_of _ _ _ r1).trans t1, (sync_qpins _ _ _ _ _ _).2 ⟨rfl, rfl⟩, ?_, ?_⟩
    · rw [GA_word]
      show c1.PC % 65536 = _
      rw [pc1, Nat.mod_mod]
    · show c2.PC = _
      rw [pc2, pc1]
  · intro hP hpg
    obtain ⟨c2, t1, i2, pc2, a2, p2, s2, e2, b2, d2⟩ :=
      bmi_t1_tk c1 _ _ bank true true false rfl i1 (by rw [hP1]; exact hP)
    have r2 := host_run_step _ _ _ _ r1 (host_step_qread _ _ mem _ _ _ _ _ _ t1)
    rw [pc1, Nat.mod_mod] at d2
    obtain ⟨c3, t2, i3, pc3, a3, p3, s3, e3, b3, d3⟩ :=
      bmi_t2_same c2 _ _ bank true false false rfl i2 (by rw [d2, pc2, pc1]; exact hpg)
    refine ⟨?_, _, (host_tick_of _ _ _ r2).trans t2, (sync_qpins _ _ _ _ _ _).2 ⟨rfl, rfl⟩, ?_, ?_⟩
    · intro k hk
      interval_cases k
      · exact h0
      · exact ⟨_, (host_tick_of _ _ _ r1).trans t1, by rw [sync_qpins]; simp⟩
    · rw [GA_word]
      show c2.AD % 65536 = _
      rw [d2, Nat.mod_mod]
    · show c3.PC = _
      rw [pc3, d2]
  · intro hP hpg
    obtain ⟨c2, t1, i2, pc2, a2, p2, s2, e2, b2, d2⟩ :=
      bmi_t1_tk c1 _ _ bank true true false rfl i1 (by rw [hP1]; exact hP)
    have r2 := host_run_step _ _ _ _ r1 (host_step_qread _ _ mem _ _ _ _ _ _ t1)
    rw [pc1, Nat.mod_mod] at d2
    obtain ⟨c3, t2, i3, pc3, a3, p3, s3, e3, b3, d3⟩ :=
      bmi_t2_cross c2 _ _ bank true false false rfl i2 (by rw [d2, pc2, pc1]; exact hpg)
    have r3 := host_run_step _ _ _ _ r2 (host_step_qread _ _ mem _ _ _ _ _ _ t2)
    obtain ⟨c4, t3, i4, pc4, a4, p4, s4, e4, b4, d4⟩ :=
      bmi_t3 c3 _ _ bank true false false rfl i3
    refine ⟨?_, _, (host_tick_of _ _ _ r3).trans t3, (sync_qpins _ _ _ _ _ _).2 ⟨rfl, rfl⟩, ?_, ?_⟩
    · intro k hk
      interval_cases k
      · exact h0
      · exact ⟨_, (host_tick_of _ _ _ r1).trans t1, by rw [sync_qpins]; simp⟩
      · exact ⟨_, (host_tick_of _ _ _ r2).trans t2, by rw [sync_qpins]; simp⟩
    · rw [GA_word]
      show c3.AD % 65536 = _
      rw [d3, d2, Nat.mod_mod]
    · show c4.PC = _
      rw [pc4, d3, d2]

/-- BVC (0x50) under the host loop: not taken 2 ticks, taken inside the page 3 ticks, taken
across a page boundary 4 ticks, up to the tick that issues the next opcode fetch. -/
theorem bvc_run (c : w65816_t) (mem : Mem) (a bank : Nat) (rw : Bool)
    (hb : c.brk_flags = 0) (hi : c.irq_pip = 0) (hn : c.nmi_pip = 0) :
    (c.P &&& 0x40 ≠ 0x00 →
      (∃ r, host_tick 0 (Sys.mk c (qpins a 0x50 rw true true bank).word mem) = some r ∧
        ¬ (r.2 &&& W65816_VPA ≠ 0 ∧ r.2 &&& W65816_VDA ≠ 0)) ∧
      ∃ r, host_tick 1 (Sys.mk c (qpins a 0x50 rw true true bank).word mem) = some r ∧
        (r.2 &&& W65816_VPA ≠ 0 ∧ r.2 &&& W65816_VDA ≠ 0) ∧
        _GA r.2 = (c.PC + 2) % 65536 ∧ r.1.PC = (c.PC + 2) % 65536) ∧
    (c.P &&& 0x40 = 0x00 →
      ((c.PC + 2) % 65536 + SEXT8 (mem ((c.PC + 1) % 65536 + bank % 256 * 65536) % 256)) % 65536 &&&
        0xFF00 = (c.PC + 2) % 65536 &&& 0xFF00 →
      (∀ k, k < 2 → ∃ r, host_tick k (Sys.mk c (qpins a 0x50 rw true true bank).word mem) = some r ∧
        ¬ (r.2 &&& W65816_VPA ≠ 0 ∧ r.2 &&& W65816_VDA ≠ 0)) ∧
      ∃ r, host_tick 2 (Sys.mk c (qpins a 0x50 rw true true bank).word mem) = some r ∧
        (r.2 &&& W65816_VPA ≠ 0 ∧ r.2 &&& W65816_VDA ≠ 0) ∧
        _GA r.2 = ((c.PC + 2) % 65536 +
          SEXT8 (mem ((c.PC + 1) % 65536 + bank % 256 * 65536) % 256)) % 65536 ∧
        r.1.PC = ((c.PC + 2) % 65536 +
          SEXT8 (mem ((c.PC + 1) % 65536 + bank % 256 * 65536) % 256)) % 65536) ∧
    (c.P &&& 0x40 = 0x00 →
      ((c.PC + 2) % 65536 + SEXT8 (mem ((c.PC + 1) % 65536 + bank % 256 * 65536) % 256)) % 65536 &&&
        0xFF00 ≠ (c.PC + 2) % 65536 &&& 0xFF00 →
      (∀ k, k < 3 → ∃ r, host_tick k (Sys.mk c (qpins a 0x50 rw true true bank).word mem) = some r ∧
        ¬ (r.2 &&& W65816_VPA ≠ 0 ∧ r.2 &&& W65816_VDA ≠ 0)) ∧
      ∃ r, host_tick 3 (Sys.mk c (qpins a 0x50 rw true true bank).word mem) = some r ∧
        (r.2 &&& W65816_VPA ≠ 0 ∧ r.2 &&& W65816_VDA ≠ 0) ∧
        _GA r.2 = ((c.PC + 2) % 65536 +
          SEXT8 (mem ((c.PC + 1) % 65536 + bank % 256 * 65536) % 256)) % 65536 ∧
        r.1.PC = ((c.PC + 2) % 65536 +
          SEXT8 (mem ((c.PC + 1) % 65536 + bank % 256 * 65536) % 256)) % 65536) := by
  have r0 := host_run_zero (Sys.mk c (qpins a 0x50 rw true true bank).word mem)
  obtain ⟨c1, t0, i1, pc1, a1, p1, s1, e1, b1, d1⟩ := bvc_t0 c a bank rw hb hi hn
  have r1 := host_run_step _ _ _ _ r0 (host_step_qread _ _ mem _ _ _ _ _ _ t0)
  have hP1 : c1.P &&& 0x40 = c.P &&& 0x40 := by
    rw [p1]
    exact fin_P_bit _ _ 6 (by norm_num) (by norm_num)
  rw [pc_two] at pc1
  rw [Nat.mod_mod] at r1
  have h0 : ∃ r, host_tick 0 (Sys.mk c (qpins a 0x50 rw true true bank).word mem) = some r ∧
      ¬ (r.2 &&& W65816_VPA ≠ 0 ∧ r.2 &&& W65816_VDA ≠ 0) :=
    ⟨_, (host_tick_of _ _ _ r0).trans t0, by rw [sync_qpins]; simp⟩
  refine ⟨?_, ?_, ?_⟩
  · intro hP
    obtain ⟨c2, t1, i2, pc2, a2, p2, s2, e2, b2, d2⟩ :=
      bvc_t1_nt c1 _ _ bank true true false rfl i1 (by rw [hP1]; exact hP)
    refine ⟨h0, _, (host_tick_of _ _ _ r1).trans t1, (sync_qpins _ _ _ _ _ _).2 ⟨rfl, rfl⟩, ?_, ?_⟩
    · rw [GA_word]
      show c1.PC % 65536 = _
      rw [pc1, Nat.mod_mod]
    · show c2.PC = _
      rw [pc2, pc1]
  · intro hP hpg
    obtain ⟨c2, t1, i2, pc2, a2, p2, s2, e2, b2, d2⟩ :=
      bvc_t1_tk c1 _ _ bank true true false rfl i1 (by rw [hP1]; exact hP)
    have r2 := host_run_step _ _ _ _ r1 (host_step_qread _ _ mem _ _ _ _ _ _ t1)
    rw [pc1, Nat.mod_mod] at d2
    obtain ⟨c3, t2, i3, pc3, a3, p3, s3, e3, b3, d3⟩ :=
      bvc_t2_same c2 _ _ bank true false false rfl i2 (by rw [d2, pc2, pc1]; exact hpg)
    refine ⟨?_, _, (host_tick_of _ _ _ r2).trans t2, (sync_qpins _ _ _ _ _ _).2 ⟨rfl, rfl⟩, ?_, ?_⟩
    · intro k hk
      interval_cases k
      · exact h0
      · exact ⟨_, (host_tick_of _ _ _ r1).trans t1, by rw [sync_qpins]; simp⟩
    · rw [GA_word]
      show c2.AD % 65536 = _
      rw [d2, Nat.mod_mod]
    · show c3.PC = _
      rw [pc3, d2]
  · intro hP hpg
    obtain ⟨c2, t1, i2, pc2, a2, p2, s2, e2, b2, d2⟩ :=
      bvc_t1_tk c1 _ _ bank true true false rfl i1 (by rw [hP1]; exact hP)
    have r2 := host_run_step _ _ _ _ r1 (host_step_qread _ _ mem _ _ _ _ _ _ t1)
    rw [pc1, Nat.mod_mod] at d2
    obtain ⟨c3, t2, i3, pc3, a3, p3, s3, e3, b3, d3⟩ :=
      bvc_t2_cross c2 _ _ bank true false false rfl i2 (by rw [d2, pc2, pc1]; exact hpg)
    have r3 := host_run_step _ _ _ _ r2 (host_step_qread _ _ mem _ _ _ _ _ _ t2)
    obtain ⟨c4, t3, i4, pc4, a4, p4, s4, e4, b4, d4⟩ :=
      bvc_t3 c3 _ _ bank true false false rfl i3
    refine ⟨?_, _, (host_tick_of _ _ _ r3).trans t3, (sync_qpins _ _ _ _ _ _).2 ⟨rfl, rfl⟩, ?_, ?_⟩
    · intro k hk
      interval_cases k
      · exact h0
      · exact ⟨_, (host_tick_of _ _ _ r1).trans t1, by rw [sync_qpins]; simp⟩
      · exact ⟨_, (host_tick_of _ _ _ r2).trans t2, by rw [sync_qpins]; simp⟩
    · rw [GA_word]
      show c3.AD % 65536 = _
      rw [d3, d2, Nat.mod_mod]
    · show c4.PC = _
      rw [pc4, d3, d2]

/-- BVS (0x70) under the host loop: not taken 2 ticks, taken inside the page 3 ticks, taken
across a page boundary 4 ticks, up to the tick that issues the next opcode fetch. -/
theorem bvs_run (c : w65816_t) (mem : Mem) (a bank : Nat) (rw : Bool)
    (hb : c.brk_flags = 0) (hi : c.irq_pip = 0) (hn : c.nmi_pip = 0) :
    (c.P &&& 0x40 ≠ 0x40 →
      (∃ r, host_tick 0 (Sys.mk c (qpins a 0x70 rw true true bank).word mem) = some r ∧
        ¬ (r.2 &&& W65816_VPA ≠ 0 ∧ r.2 &&& W65816_VDA ≠ 0)) ∧
      ∃ r, host_tick 1 (Sys.mk c (qpins a 0x70 rw true true bank).word mem) = some r ∧
        (r.2 &&& W65816_VPA ≠ 0 ∧ r.2 &&& W65816_VDA ≠ 0) ∧
        _GA r.2 = (c.PC + 2) % 65536 ∧ r.1.PC = (c.PC + 2) % 65536) ∧
    (c.P &&& 0x40 = 0x40 →
      ((c.PC + 2) % 65536 + SEXT8 (mem ((c.PC + 1) % 65536 + bank % 256 * 65536) % 256)) % 65536 &&&
        0xFF00 = (c.PC + 2) % 65536 &&& 0xFF00 →
      (∀ k, k < 2 → ∃ r, host_tick k (Sys.mk c (qpins a 0x70 rw true true bank).word mem) = some r ∧
        ¬ (r.2 &&& W65816_VPA ≠ 0 ∧ r.2 &&& W65816_VDA ≠ 0)) ∧
      ∃ r, host_tick 2 (Sys.mk c (qpins a 0x70 rw true true bank).word mem) = some r ∧
        (r.2 &&& W65816_VPA ≠ 0 ∧ r.2 &&& W65816_VDA ≠ 0) ∧
        _GA r.2 = ((c.PC + 2) % 65536 +
          SEXT8 (mem ((c.PC + 1) % 65536 + bank % 256 * 65536) % 256)) % 65536 ∧
        r.1.PC = ((c.PC + 2) % 65536 +
          SEXT8 (mem ((c.PC + 1) % 65536 + bank % 256 * 65536) % 256)) % 65536) ∧
    (c.P &&& 0x40 = 0x40 →
      ((c.PC + 2) % 65536 + SEXT8 (mem ((c.PC + 1) % 65536 + bank % 256 * 65536) % 256)) % 65536 &&&
        0xFF00 ≠ (c.PC + 2) % 65536 &&& 0xFF00 →
      (∀ k, k < 3 → ∃ r, host_tick k (Sys.mk c (qpins a 0x70 rw true true bank).word mem) = some r ∧
        ¬ (r.2 &&& W65816_VPA ≠ 0 ∧ r.2 &&& W65816_VDA ≠ 0)) ∧
      ∃ r, host_tick 3 (Sys.mk c (qpins a 0x70 rw true true bank).word mem) = some r ∧
        (r.2 &&& W65816_VPA ≠ 0 ∧ r.2 &&& W65816_VDA ≠ 0) ∧
        _GA r.2 = ((c.PC + 2) % 65536 +
          SEXT8 (mem ((c.PC + 1) % 65536 + bank % 256 * 65536) % 256)) % 65536 ∧
        r.1.PC = ((c.PC + 2) % 65536 +
          SEXT8 (mem ((c.PC + 1) % 65536 + bank % 256 * 65536) % 256)) % 65536) := by
  have r0 := host_run_zero (Sys.mk c (qpins a 0x70 rw true true bank).word mem)
  obtain ⟨c1, t0, i1, pc1, a1, p1, s1, e1, b1, d1⟩ := bvs_t0 c a bank rw hb hi hn
  have r1 := host_run_step _ _ _ _ r0 (host_step_qread _ _ mem _ _ _ _ _ _ t0)
  have hP1 : c1.P &&& 0x40 = c.P &&& 0x40 := by
    rw [p1]
    exact fin_P_bit _ _ 6 (by norm_num) (by norm_num)
  rw [pc_two] at pc1
  rw [Nat.mod_mod] at r1
  have h0 : ∃ r, host_tick 0 (Sys.mk c (qpins a 0x70 rw true true bank).word mem) = some r ∧
      ¬ (r.2 &&& W65816_VPA ≠ 0 ∧ r.2 &&& W65816_VDA ≠ 0) :=
    ⟨_, (host_tick_of _ _ _ r0).trans t0, by rw [sync_qpins]; simp⟩
  refine ⟨?_, ?_, ?_⟩
  · intro hP
    obtain ⟨c2, t1, i2, pc2, a2, p2, s2, e2, b2, d2⟩ :=
      bvs_t1_nt c1 _ _ bank true true false rfl i1 (by rw [hP1]; exact hP)
    refine ⟨h0, _, (host_tick_of _ _ _ r1).trans t1, (sync_qpins _ _ _ _ _ _).2 ⟨rfl, rfl⟩, ?_, ?_⟩
    · rw [GA_word]
      show c1.PC % 65536 = _
      rw [pc1, Nat.mod_mod]
    · show c2.PC = _
      rw [pc2, pc1]
  · intro hP hpg
    obtain ⟨c2, t1, i2, pc2, a2, p2, s2, e2, b2, d2⟩ :=
      bvs_t1_tk c1 _ _ bank true true false rfl i1 (by rw [hP1]; exact hP)
    have r2 := host_run_step _ _ _ _ r1 (host_step_qread _ _ mem _ _ _ _ _ _ t1)
    rw [pc1, Nat.mod_mod] at d2
    obtain ⟨c3, t2, i3, pc3, a3, p3, s3, e3, b3, d3⟩ :=
      bvs_t2_same c2 _ _ bank true false false rfl i2 (by rw [d2, pc2, pc1]; exact hpg)
    refine ⟨?_, _, (host_tick_of _ _ _ r2).trans t2, (sync_qpins _ _ _ _ _ _).2 ⟨rfl, rfl⟩, ?_, ?_⟩
    · intro k hk
      interval_cases k
      · exact h0
      · exact ⟨_, (host_tick_of _ _ _ r1).trans t1, by rw [sync_qpins]; simp⟩
    · rw [GA_word]
      show c2.AD % 65536 = _
      rw [d2, Nat.mod_mod]
    · show c3.PC = _
      rw [pc3, d2]
  · intro hP hpg
    obtain ⟨c2, t1, i2, pc2, a2, p2, s2, e2, b2, d2⟩ :=
      bvs_t1_tk c1 _ _ bank true true false rfl i1 (by rw [hP1]; exact hP)
    have r2 := host_run_step _ _ _ _ r1 (host_step_qread _ _ mem _ _ _ _ _ _ t1)
    rw [pc1, Nat.mod_mod] at d2
    obtain ⟨c3, t2, i3, pc3, a3, p3, s3, e3, b3, d3⟩ :=
      bvs_t2_cross c2 _ _ bank true false false rfl i2 (by rw [d2, pc2, pc1]; exact hpg)
    have r3 := host_run_step _ _ _ _ r2 (host_step_qread _ _ mem _ _ _ _ _ _ t2)
    obtain ⟨c4, t3, i4, pc4, a4, p4, s4, e4, b4, d4⟩ :=
      bvs_t3 c3 _ _ bank true false false rfl i3
    refine ⟨?_, _, (host_tick_of _ _ _ r3).trans t3, (sync_qpins _ _ _ _ _ _).2 ⟨rfl, rfl⟩, ?_, ?_⟩
    · intro k hk
      interval_cases k
      · exact h0
      · exact ⟨_, (host_tick_of _ _ _ r1).trans t1, by rw [sync_qpins]; simp⟩
      · exact ⟨_, (host_tick_of _ _ _ r2).trans t2, by rw [sync_qpins]; simp⟩
    · rw [GA_word]
      show c3.AD % 65536 = _
      rw [d3, d2, Nat.mod_mod]
    · show c4.PC = _
      rw [pc4, d3, d2]

/-- BCC (0x90) under the host loop: not taken 2 ticks, taken inside the page 3 ticks, taken
across a page boundary 4 ticks, up to the tick that issues the next opcode fetch. -/
theorem bcc_run (c : w65816_t) (mem : Mem) (a bank : Nat) (rw : Bool)
    (hb : c.brk_flags = 0) (hi : c.irq_pip = 0) (hn : c.nmi_pip = 0) :
    (c.P &&& 0x01 ≠ 0x00 →
      (∃ r, host_tick 0 (Sys.mk c (qpins a 0x90 rw true true bank).word mem) = some r ∧
        ¬ (r.2 &&& W65816_VPA ≠ 0 ∧ r.2 &&& W65816_VDA ≠ 0)) ∧
      ∃ r, host_tick 1 (Sys.mk c (qpins a 0x90 rw true true bank).word mem) = some r ∧
        (r.2 &&& W65816_VPA ≠ 0 ∧ r.2 &&& W65816_VDA ≠ 0) ∧
        _GA r.2 = (c.PC + 2) % 65536 ∧ r.1.PC = (c.PC + 2) % 65536) ∧
    (c.P &&& 0x01 = 0x00 →
      ((c.PC + 2) % 65536 + SEXT8 (mem ((c.PC + 1) % 65536 + bank % 256 * 65536) % 256)) % 65536 &&&
        0xFF00 = (c.PC + 2) % 65536 &&& 0xFF00 →
      (∀ k, k < 2 → ∃ r, host_tick k (Sys.mk c (qpins a 0x90 rw true true bank).word mem) = some r ∧
        ¬ (r.2 &&& W65816_VPA ≠ 0 ∧ r.2 &&& W65816_VDA ≠ 0)) ∧
      ∃ r, host_tick 2 (Sys.mk c (qpins a 0x90 rw true true bank).word mem) = some r ∧
        (r.2 &&& W65816_VPA ≠ 0 ∧ r.2 &&& W65816_VDA ≠ 0) ∧
        _GA r.2 = ((c.PC + 2) % 65536 +
          SEXT8 (mem ((c.PC + 1) % 65536 + bank % 256 * 65536) % 256)) % 65536 ∧
        r.1.PC = ((c.PC + 2) % 65536 +
          SEXT8 (mem ((c.PC + 1) % 65536 + bank % 256 * 65536) % 256)) % 65536) ∧
    (c.P &&& 0x01 = 0x00 →
      ((c.PC + 2) % 65536 + SEXT8 (mem ((c.PC + 1) % 65536 + bank % 256 * 65536) % 256)) % 65536 &&&
        0xFF00 ≠ (c.PC + 2) % 65536 &&& 0xFF00 →
      (∀ k, k < 3 → ∃ r, host_tick k (Sys.mk c (qpins a 0x90 rw true true bank).word mem) = some r ∧
        ¬ (r.2 &&& W65816_VPA ≠ 0 ∧ r.2 &&& W65816_VDA ≠ 0)) ∧
      ∃ r, host_tick 3 (Sys.mk c (qpins a 0x90 rw true true bank).word mem) = some r ∧
        (r.2 &&& W65816_VPA ≠ 0 ∧ r.2 &&& W65816_VDA ≠ 0) ∧
        _GA r.2 = ((c.PC + 2) % 65536 +
          SEXT8 (mem ((c.PC + 1) % 65536 + bank % 256 * 65536) % 256)) % 65536 ∧
        r.1.PC = ((c.PC + 2) % 65536 +
          SEXT8 (mem ((c.PC + 1) % 65536 + bank % 256 * 65536) % 256)) % 65536) := by
  have r0 := host_run_zero (Sys.mk c (qpins a 0x90 rw true true bank).word mem)
  obtain ⟨c1, t0, i1, pc1, a1, p1, s1, e1, b1, d1⟩ := bcc_t0 c a bank rw hb hi hn
  have r1 := host_run_step _ _ _ _ r0 (host_step_qread _ _ mem _ _ _ _ _ _ t0)
  have hP1 : c1.P &&& 0x01 = c.P &&& 0x01 := by
    rw [p1]
    exact fin_P_bit _ _ 0 (by norm_num) (by norm_num)
  rw [pc_two] at pc1
  rw [Nat.mod_mod] at r1
  have h0 : ∃ r, host_tick 0 (Sys.mk c (qpins a 0x90 rw true true bank).word mem) = some r ∧
      ¬ (r.2 &&& W65816_VPA ≠ 0 ∧ r.2 &&& W65816_VDA ≠ 0) :=
    ⟨_, (host_tick_of _ _ _ r0).trans t0, by rw [sync_qpins]; simp⟩
  refine ⟨?_, ?_, ?_⟩
  · intro hP
    obtain ⟨c2, t1, i2, pc2, a2, p2, s2, e2, b2, d2⟩ :=
      bcc_t1_nt c1 _ _ bank true true false rfl i1 (by rw [hP1]; exact hP)
    refine ⟨h0, _, (host_tick_of _ _ _ r1).trans t1, (sync_qpins _ _ _ _ _ _).2 ⟨rfl, rfl⟩, ?_, ?_⟩
    · rw [GA_word]
      show c1.PC % 65536 = _
      rw [pc1, Nat.mod_mod]
    · show c2.PC = _
      rw [pc2, pc1]
  · intro hP hpg
    obtain ⟨c2, t1, i2, pc2, a2, p2, s2, e2, b2, d2⟩ :=
      bcc_t1_tk c1 _ _ bank true true false rfl i1 (by rw [hP1]; exact hP)
    have r2 := host_run_step _ _ _ _ r1 (host_step_qread _ _ mem _ _ _ _ _ _ t1)
    rw [pc1, Nat.mod_mod] at d2
    obtain ⟨c3, t2, i3, pc3, a3, p3, s3, e3, b3, d3⟩ :=
      bcc_t2_same c2 _ _ bank true false false rfl i2 (by rw [d2, pc2, pc1]; exact hpg)
    refine ⟨?_, _, (host_tick_of _ _ _ r2).trans t2, (sync_qpins _ _ _ _ _ _).2 ⟨rfl, rfl⟩, ?_, ?_⟩
    · intro k hk
      interval_cases k
      · exact h0
      · exact ⟨_, (host_tick_of _ _ _ r1).trans t1, by rw [sync_qpins]; simp⟩
    · rw [GA_word]
      show c2.AD % 65536 = _
      rw [d2, Nat.mod_mod]
    · show c3.PC = _
      rw [pc3, d2]
  · intro hP hpg
    obtain ⟨c2, t1, i2, pc2, a2, p2, s2, e2, b2, d2⟩ :=
      bcc_t1_tk c1 _ _ bank true true false rfl i1 (by rw [hP1]; exact hP)
    have r2 := host_run_step _ _ _ _ r1 (host_step_qread _ _ mem _ _ _ _ _ _ t1)
    rw [pc1, Nat.mod_mod] at d2
    obtain ⟨c3, t2, i3, pc3, a3, p3, s3, e3, b3, d3⟩ :=
      bcc_t2_cross c2 _ _ bank true false false rfl i2 (by rw [d2, pc2, pc1]; exact hpg)
    have r3 := host_run_step _ _ _ _ r2 (host_step_qread _ _ mem _ _ _ _ _ _ t2)
    obtain ⟨c4, t3, i4, pc4, a4, p4, s4, e4, b4, d4⟩ :=
      bcc_t3 c3 _ _ bank true false false rfl i3
    refine ⟨?_, _, (host_tick_of _ _ _ r3).trans t3, (sync_qpins _ _ _ _ _ _).2 ⟨rfl, rfl⟩, ?_, ?_⟩
    · intro k hk
      interval_cases k
      · exact h0
      · exact ⟨_, (host_tick_of _ _ _ r1).trans t1, by rw [sync_qpins]; simp⟩
      · exact ⟨_, (host_tick_of _ _ _ r2).trans t2, by rw [sync_qpins]; simp⟩
    · rw [GA_word]
      show c3.AD % 65536 = _
      rw [d3, d2, Nat.mod_mod]
    · show c4.PC = _
      rw [pc4, d3, d2]

/-- BCS (0xB0) under the host loop: not taken 2 ticks, taken inside the page 3 ticks, taken
across a page boundary 4 ticks, up to the tick that issues the next opcode fetch. -/
theorem bcs_run (c : w65816_t) (mem : Mem) (a bank : Nat) (rw : Bool)
    (hb : c.brk_flags = 0) (hi : c.irq_pip = 0) (hn : c.nmi_pip = 0) :
    (c.P &&& 0x01 ≠ 0x01 →
      (∃ r, host_tick 0 (Sys.mk c (qpins a 0xB0 rw true true bank).word mem) = some r ∧
        ¬ (r.2 &&& W65816_VPA ≠ 0 ∧ r.2 &&& W65816_VDA ≠ 0)) ∧
      ∃ r, host_tick 1 (Sys.mk c (qpins a 0xB0 rw true true bank).word mem) = some r ∧
        (r.2 &&& W65816_VPA ≠ 0 ∧ r.2 &&& W65816_VDA ≠ 0) ∧
        _GA r.2 = (c.PC + 2) % 65536 ∧ r.1.PC = (c.PC + 2) % 65536) ∧
    (c.P &&& 0x01 = 0x01 →
      ((c.PC + 2) % 65536 + SEXT8 (mem ((c.PC + 1) % 65536 + bank % 256 * 65536) % 256)) % 65536 &&&
        0xFF00 = (c.PC + 2) % 65536 &&& 0xFF00 →
      (∀ k, k < 2 → ∃ r, host_tick k (Sys.mk c (qpins a 0xB0 rw true true bank).word mem) = some r ∧
        ¬ (r.2 &&& W65816_VPA ≠ 0 ∧ r.2 &&& W65816_VDA ≠ 0)) ∧
      ∃ r, host_tick 2 (Sys.mk c (qpins a 0xB0 rw true true bank).word mem) = some r ∧
        (r.2 &&& W65816_VPA ≠ 0 ∧ r.2 &&& W65816_VDA ≠ 0) ∧
        _GA r.2 = ((c.PC + 2) % 65536 +
          SEXT8 (mem ((c.PC + 1) % 65536 + bank % 256 * 65536) % 256)) % 65536 ∧
        r.1.PC = ((c.PC + 2) % 65536 +
          SEXT8 (mem ((c.PC + 1) % 65536 + bank % 256 * 65536) % 256)) % 65536) ∧
    (c.P &&& 0x01 = 0x01 →
      ((c.PC + 2) % 65536 + SEXT8 (mem ((c.PC + 1) % 65536 + bank % 256 * 65536) % 256)) % 65536 &&&
        0xFF00 ≠ (c.PC + 2) % 65536 &&& 0xFF00 →
      (∀ k, k < 3 → ∃ r, host_tick k (Sys.mk c (qpins a 0xB0 rw true true bank).word mem) = some r ∧
        ¬ (r.2 &&& W65816_VPA ≠ 0 ∧ r.2 &&& W65816_VDA ≠ 0)) ∧
      ∃ r, host_tick 3 (Sys.mk c (qpins a 0xB0 rw true true bank).word mem) = some r ∧
        (r.2 &&& W65816_VPA ≠ 0 ∧ r.2 &&& W65816_VDA ≠ 0) ∧
        _GA r.2 = ((c.PC + 2) % 65536 +
          SEXT8 (mem ((c.PC + 1) % 65536 + bank % 256 * 65536) % 256)) % 65536 ∧
        r.1.PC = ((c.PC + 2) % 65536 +
          SEXT8 (mem ((c.PC + 1) % 65536 + bank % 256 * 65536) % 256)) % 65536) := by
  have r0 := host_run_zero (Sys.mk c (qpins a 0xB0 rw true true bank).word mem)
  obtain ⟨c1, t0, i1, pc1, a1, p1, s1, e1, b1, d1⟩ := bcs_t0 c a bank rw hb hi hn
  have r1 := host_run_step _ _ _ _ r0 (host_step_qread _ _ mem _ _ _ _ _ _ t0)
  have hP1 : c1.P &&& 0x01 = c.P &&& 0x01 := by
    rw [p1]
    exact fin_P_bit _ _ 0 (by norm_num) (by norm_num)
  rw [pc_two] at pc1
  rw [Nat.mod_mod] at r1
  have h0 : ∃ r, host_tick 0 (Sys.mk c (qpins a 0xB0 rw true true bank).word mem) = some r ∧
      ¬ (r.2 &&& W65816_VPA ≠ 0 ∧ r.2 &&& W65816_VDA ≠ 0) :=
    ⟨_, (host_tick_of _ _ _ r0).trans t0, by rw [sync_qpins]; simp⟩
  refine ⟨?_, ?_, ?_⟩
  · intro hP
    obtain ⟨c2, t1, i2, pc2, a2, p2, s2, e2, b2, d2⟩ :=
      bcs_t1_nt c1 _ _ bank true true false rfl i1 (by rw [hP1]; exact hP)
    refine ⟨h0, _, (host_tick_of _ _ _ r1).trans t1, (sync_qpins _ _ _ _ _ _).2 ⟨rfl, rfl⟩, ?_, ?_⟩
    · rw [GA_word]
      show c1.PC % 65536 = _
      rw [pc1, Nat.mod_mod]
    · show c2.PC = _
      rw [pc2, pc1]
  · intro hP hpg
    obtain ⟨c2, t1, i2, pc2, a2, p2, s2, e2, b2, d2⟩ :=
      bcs_t1_tk c1 _ _ bank true true false rfl i1 (by rw [hP1]; exact hP)
    have r2 := host_run_step _ _ _ _ r1 (host_step_qread _ _ mem _ _ _ _ _ _ t1)
    rw [pc1, Nat.mod_mod] at d2
    obtain ⟨c3, t2, i3, pc3, a3, p3, s3, e3, b3, d3⟩ :=
      bcs_t2_same c2 _ _ bank true false false rfl i2 (by rw [d2, pc2, pc1]; exact hpg)
    refine ⟨?_, _, (host_tick_of _ _ _ r2).trans t2, (sync_qpins _ _ _ _ _ _).2 ⟨rfl, rfl⟩, ?_, ?_⟩
    · intro k hk
      interval_cases k
      · exact h0
      · exact ⟨_, (host_tick_of _ _ _ r1).trans t1, by rw [sync_qpins]; simp⟩
    · rw [GA_word]
      show c2.AD % 65536 = _
      rw [d2, Nat.mod_mod]
    · show c3.PC = _
      rw [pc3, d2]
  · intro hP hpg
    obtain ⟨c2, t1, i2, pc2, a2, p2, s2, e2, b2, d2⟩ :=
      bcs_t1_tk c1 _ _ bank true true false rfl i1 (by rw [hP1]; exact hP)
    have r2 := host_run_step _ _ _ _ r1 (host_step_qread _ _ mem _ _ _ _ _ _ t1)
    rw [pc1, Nat.mod_mod] at d2
    obtain ⟨c3, t2, i3, pc3, a3, p3, s3, e3, b3, d3⟩ :=
      bcs_t2_cross c2 _ _ bank true false false rfl i2 (by rw [d2, pc2, pc1]; exact hpg)
    have r3 := host_run_step _ _ _ _ r2 (host_step_qread _ _ mem _ _ _ _ _ _ t2)
    obtain ⟨c4, t3, i4, pc4, a4, p4, s4, e4, b4, d4⟩ :=
      bcs_t3 c3 _ _ bank true false false rfl i3
    refine ⟨?_, _, (host_tick_of _ _ _ r3).trans t3, (sync_qpins _ _ _ _ _ _).2 ⟨rfl, rfl⟩, ?_, ?_⟩
    · intro k hk
      interval_cases k
      · exact h0
      · exact ⟨_, (host_tick_of _ _ _ r1).trans t1, by rw [sync_qpins]; simp⟩
      · exact ⟨_, (host_tick_of _ _ _ r2).trans t2, by rw [sync_qpins]; simp⟩
    · rw [GA_word]
      show c3.AD % 65536 = _
      rw [d3, d2, Nat.mod_mod]
    · show c4.PC = _
      rw [pc4, d3, d2]

/-- BNE (0xD0) under the host loop: not taken 2 ticks, taken inside the page 3 ticks, taken
across a page boundary 4 ticks, up to the tick that issues the next opcode fetch. -/
theorem bne_run (c : w65816_t) (mem : Mem) (a bank : Nat) (rw : Bool)
    (hb : c.brk_flags = 0) (hi : c.irq_pip = 0) (hn : c.nmi_pip = 0) :
    (c.P &&& 0x02 ≠ 0x00 →
      (∃ r, host_tick 0 (Sys.mk c (qpins a 0xD0 rw true true bank).word mem) = some r ∧
        ¬ (r.2 &&& W65816_VPA ≠ 0 ∧ r.2 &&& W65816_VDA ≠ 0)) ∧
      ∃ r, host_tick 1 (Sys.mk c (qpins a 0xD0 rw true true bank).word mem) = some r ∧
        (r.2 &&& W65816_VPA ≠ 0 ∧ r.2 &&& W65816_VDA ≠ 0) ∧
        _GA r.2 = (c.PC + 2) % 65536 ∧ r.1.PC = (c.PC + 2) % 65536) ∧
    (c.P &&& 0x02 = 0x00 →
      ((c.PC + 2) % 65536 + SEXT8 (mem ((c.PC + 1) % 65536 + bank % 256 * 65536) % 256)) % 65536 &&&
        0xFF00 = (c.PC + 2) % 65536 &&& 0xFF00 →
      (∀ k, k < 2 → ∃ r, host_tick k (Sys.mk c (qpins a 0xD0 rw true true bank).word mem) = some r ∧
        ¬ (r.2 &&& W65816_VPA ≠ 0 ∧ r.2 &&& W65816_VDA ≠ 0)) ∧
      ∃ r, host_tick 2 (Sys.mk c (qpins a 0xD0 rw true true bank).word mem) = some r ∧
        (r.2 &&& W65816_VPA ≠ 0 ∧ r.2 &&& W65816_VDA ≠ 0) ∧
        _GA r.2 = ((c.PC + 2) % 65536 +
          SEXT8 (mem ((c.PC + 1) % 65536 + bank % 256 * 65536) % 256)) % 65536 ∧
        r.1.PC = ((c.PC + 2) % 65536 +
          SEXT8 (mem ((c.PC + 1) % 65536 + bank % 256 * 65536) % 256)) % 65536) ∧
    (c.P &&& 0x02 = 0x00 →
      ((c.PC + 2) % 65536 + SEXT8 (mem ((c.PC + 1) % 65536 + bank % 256 * 65536) % 256)) % 65536 &&&
        0xFF00 ≠ (c.PC + 2) % 65536 &&& 0xFF00 →
      (∀ k, k < 3 → ∃ r, host_tick k (Sys.mk c (qpins a 0xD0 rw true true bank).word mem) = some r ∧
        ¬ (r.2 &&& W65816_VPA ≠ 0 ∧ r.2 &&& W65816_VDA ≠ 0)) ∧
      ∃ r, host_tick 3 (Sys.mk c (qpins a 0xD0 rw true true bank).word mem) = some r ∧
        (r.2 &&& W65816_VPA ≠ 0 ∧ r.2 &&& W65816_VDA ≠ 0) ∧
        _GA r.2 = ((c.PC + 2) % 65536 +
          SEXT8 (mem ((c.PC + 1) % 65536 + bank % 256 * 65536) % 256)) % 65536 ∧
        r.1.PC = ((c.PC + 2) % 65536 +
          SEXT8 (mem ((c.PC + 1) % 65536 + bank % 256 * 65536) % 256)) % 65536) := by
  have r0 := host_run_zero (Sys.mk c (qpins a 0xD0 rw true true bank).word mem)
  obtain ⟨c1, t0, i1, pc1, a1, p1, s1, e1, b1, d1⟩ := bne_t0 c a bank rw hb hi hn
  have r1 := host_run_step _ _ _ _ r0 (host_step_qread _ _ mem _ _ _ _ _ _ t0)
  have hP1 : c1.P &&& 0x02 = c.P &&& 0x02 := by
    rw [p1]
    exact fin_P_bit _ _ 1 (by norm_num) (by norm_num)
  rw [pc_two] at pc1
  rw [Nat.mod_mod] at r1
  have h0 : ∃ r, host_tick 0 (Sys.mk c (qpins a 0xD0 rw true true bank).word mem) = some r ∧
      ¬ (r.2 &&& W65816_VPA ≠ 0 ∧ r.2 &&& W65816_VDA ≠ 0) :=
    ⟨_, (host_tick_of _ _ _ r0).trans t0, by rw [sync_qpins]; simp⟩
  refine ⟨?_, ?_, ?_⟩
  · intro hP
    obtain ⟨c2, t1, i2, pc2, a2, p2, s2, e2, b2, d2⟩ :=
      bne_t1_nt c1 _ _ bank true true false rfl i1 (by rw [hP1]; exact hP)
    refine ⟨h0, _, (host_tick_of _ _ _ r1).trans t1, (sync_qpins _ _ _ _ _ _).2 ⟨rfl, rfl⟩, ?_, ?_⟩
    · rw [GA_word]
      show c1.PC % 65536 = _
      rw [pc1, Nat.mod_mod]
    · show c2.PC = _
      rw [pc2, pc1]
  · intro hP hpg
    obtain ⟨c2, t1, i2, pc2, a2, p2, s2, e2, b2, d2⟩ :=
      bne_t1_tk c1 _ _ bank true true false rfl i1 (by rw [hP1]; exact hP)
    have r2 := host_run_step _ _ _ _ r1 (host_step_qread _ _ mem _ _ _ _ _ _ t1)
    rw [pc1, Nat.mod_mod] at d2
    obtain ⟨c3, t2, i3, pc3, a3, p3, s3, e3, b3, d3⟩ :=
      bne_t2_same c2 _ _ bank true false false rfl i2 (by rw [d2, pc2, pc1]; exact hpg)
    refine ⟨?_, _, (host_tick_of _ _ _ r2).trans t2, (sync_qpins _ _ _ _ _ _).2 ⟨rfl, rfl⟩, ?_, ?_⟩
    · intro k hk
      interval_cases k
      · exact h0
      · exact ⟨_, (host_tick_of _ _ _ r1).trans t1, by rw [sync_qpins]; simp⟩
    · rw [GA_word]
      show c2.AD % 65536 = _
      rw [d2, Nat.mod_mod]
    · show c3.PC = _
      rw [pc3, d2]
  · intro hP hpg
    obtain ⟨c2, t1, i2, pc2, a2, p2, s2, e2, b2, d2⟩ :=
      bne_t1_tk c1 _ _ bank true true false rfl i1 (by rw [hP1]; exact hP)
    have r2 := host_run_step _ _ _ _ r1 (host_step_qread _ _ mem _ _ _ _ _ _ t1)
    rw [pc1, Nat.mod_mod] at d2
    obtain ⟨c3, t2, i3, pc3, a3, p3, s3, e3, b3, d3⟩ :=
      bne_t2_cross c2 _ _ bank true false false rfl i2 (by rw [d2, pc2, pc1]; exact hpg)
    have r3 := host_run_step _ _ _ _ r2 (host_step_qread _ _ mem _ _ _ _ _ _ t2)
    obtain ⟨c4, t3, i4, pc4, a4, p4, s4, e4, b4, d4⟩ :=
      bne_t3 c3 _ _ bank true false false rfl i3
    refine ⟨?_, _, (host_tick_of _ _ _ r3).trans t3, (sync_qpins _ _ _ _ _ _).2 ⟨rfl, rfl⟩, ?_, ?_⟩
    · intro k hk
      interval_cases k
      · exact h0
      · exact ⟨_, (host_tick_of _ _ _ r1).trans t1, by rw [sync_qpins]; simp⟩
      · exact ⟨_, (host_tick_of _ _ _ r2).trans t2, by rw [sync_qpins]; simp⟩
    · rw [GA_word]
      show c3.AD % 65536 = _
      rw [d3, d2, Nat.mod_mod]
    · show c4.PC = _
      rw [pc4, d3, d2]

/-- BEQ (0xF0) under the host loop: not taken 2 ticks, taken inside the page 3 ticks, taken
across a page boundary 4 ticks, up to the tick that issues the next opcode fetch. -/
theorem beq_run (c : w65816_t) (mem : Mem) (a bank : Nat) (rw : Bool)
    (hb : c.brk_flags = 0) (hi : c.irq_pip = 0) (hn : c.nmi_pip = 0) :
    (c.P &&& 0x02 ≠ 0x02 →
      (∃ r, host_tick 0 (Sys.mk c (qpins a 0xF0 rw true true bank).word mem) = some r ∧
        ¬ (r.2 &&& W65816_VPA ≠ 0 ∧ r.2 &&& W65816_VDA ≠ 0)) ∧
      ∃ r, host_tick 1 (Sys.mk c (qpins a 0xF0 rw true true bank).word mem) = some r ∧
        (r.2 &&& W65816_VPA ≠ 0 ∧ r.2 &&& W65816_VDA ≠ 0) ∧
        _GA r.2 = (c.PC + 2) % 65536 ∧ r.1.PC = (c.PC + 2) % 65536) ∧
    (c.P &&& 0x02 = 0x02 →
      ((c.PC + 2) % 65536 + SEXT8 (mem ((c.PC + 1) % 65536 + bank % 256 * 65536) % 256)) % 65536 &&&
        0xFF00 = (c.PC + 2) % 65536 &&& 0xFF00 →
      (∀ k, k < 2 → ∃ r, host_tick k (Sys.mk c (qpins a 0xF0 rw true true bank).word mem) = some r ∧
        ¬ (r.2 &&& W65816_VPA ≠ 0 ∧ r.2 &&& W65816_VDA ≠ 0)) ∧
      ∃ r, host_tick 2 (Sys.mk c (qpins a 0xF0 rw true true bank).word mem) = some r ∧
        (r.2 &&& W65816_VPA ≠ 0 ∧ r.2 &&& W65816_VDA ≠ 0) ∧
        _GA r.2 = ((c.PC + 2) % 65536 +
          SEXT8 (mem ((c.PC + 1) % 65536 + bank % 256 * 65536) % 256)) % 65536 ∧
        r.1.PC = ((c.PC + 2) % 65536 +
          SEXT8 (mem ((c.PC + 1) % 65536 + bank % 256 * 65536) % 256)) % 65536) ∧
    (c.P &&& 0x02 = 0x02 →
      ((c.PC + 2) % 65536 + SEXT8 (mem ((c.PC + 1) % 65536 + bank % 256 * 65536) % 256)) % 65536 &&&
        0xFF00 ≠ (c.PC + 2) % 65536 &&& 0xFF00 →
      (∀ k, k < 3 → ∃ r, host_tick k (Sys.mk c (qpins a 0xF0 rw true true bank).word mem) = some r ∧
        ¬ (r.2 &&& W65816_VPA ≠ 0 ∧ r.2 &&& W65816_VDA ≠ 0)) ∧
      ∃ r, host_tick 3 (Sys.mk c (qpins a 0xF0 rw true true bank).word mem) = some r ∧
        (r.2 &&& W65816_VPA ≠ 0 ∧ r.2 &&& W65816_VDA ≠ 0) ∧
        _GA r.2 = ((c.PC + 2) % 65536 +
          SEXT8 (mem ((c.PC + 1) % 65536 + bank % 256 * 65536) % 256)) % 65536 ∧
        r.1.PC = ((c.PC + 2) % 65536 +
          SEXT8 (mem ((c.PC + 1) % 65536 + bank % 256 * 65536) % 256)) % 65536) := by
  have r0 := host_run_zero (Sys.mk c (qpins a 0xF0 rw true true bank).word mem)
  obtain ⟨c1, t0, i1, pc1, a1, p1, s1, e1, b1, d1⟩ := beq_t0 c a bank rw hb hi hn
  have r1 := host_run_step _ _ _ _ r0 (host_step_qread _ _ mem _ _ _ _ _ _ t0)
  have hP1 : c1.P &&& 0x02 = c.P &&& 0x02 := by
    rw [p1]
    exact fin_P_bit _ _ 1 (by norm_num) (by norm_num)
  rw [pc_two] at pc1
  rw [Nat.mod_mod] at r1
  have h0 : ∃ r, host_tick 0 (Sys.mk c (qpins a 0xF0 rw true true bank).word mem) = some r ∧
      ¬ (r.2 &&& W65816_VPA ≠ 0 ∧ r.2 &&& W65816_VDA ≠ 0) :=
    ⟨_, (host_tick_of _ _ _ r0).trans t0, by rw [sync_qpins]; simp⟩
  refine ⟨?_, ?_, ?_⟩
  · intro hP
    obtain ⟨c2, t1, i2, pc2, a2, p2, s2, e2, b2, d2⟩ :=
      beq_t1_nt c1 _ _ bank true true false rfl i1 (by rw [hP1]; exact hP)
    refine ⟨h0, _, (host_tick_of _ _ _ r1).trans t1, (sync_qpins _ _ _ _ _ _).2 ⟨rfl, rfl⟩, ?_, ?_⟩
    · rw [GA_word]
      show c1.PC % 65536 = _
      rw [pc1, Nat.mod_mod]
    · show c2.PC = _
      rw [pc2, pc1]
  · intro hP hpg
    obtain ⟨c2, t1, i2, pc2, a2, p2, s2, e2, b2, d2⟩ :=
      beq_t1_tk c1 _ _ bank true true false rfl i1 (by rw [hP1]; exact hP)
    have r2 := host_run_step _ _ _ _ r1 (host_step_qread _ _ mem _ _ _ _ _ _ t1)
    rw [pc1, Nat.mod_mod] at d2
    obtain ⟨c3, t2, i3, pc3, a3, p3, s3, e3, b3, d3⟩ :=
      beq_t2_same c2 _ _ bank true false false rfl i2 (by rw [d2, pc2, pc1]; exact hpg)
    refine ⟨?_, _, (host_tick_of _ _ _ r2).trans t2, (sync_qpins _ _ _ _ _ _).2 ⟨rfl, rfl⟩, ?_, ?_⟩
    · intro k hk
      interval_cases k
      · exact h0
      · exact ⟨_, (host_tick_of _ _ _ r1).trans t1, by rw [sync_qpins]; simp⟩
    · rw [GA_word]
      show c2.AD % 65536 = _
      rw [d2, Nat.mod_mod]
    · show c3.PC = _
      rw [pc3, d2]
  · intro hP hpg
    obtain ⟨c2, t1, i2, pc2, a2, p2, s2, e2, b2, d2⟩ :=
      beq_t1_tk c1 _ _ bank true true false rfl i1 (by rw [hP1]; exact hP)
    have r2 := host_run_step _ _ _ _ r1 (host_step_qread _ _ mem _ _ _ _ _ _ t1)
    rw [pc1, Nat.mod_mod] at d2
    obtain ⟨c3, t2, i3, pc3, a3, p3, s3, e3, b3, d3⟩ :=
      beq_t2_cross c2 _ _ bank true false false rfl i2 (by rw [d2, pc2, pc1]; exact hpg)
    have r3 := host_run_step _ _ _ _ r2 (host_step_qread _ _ mem _ _ _ _ _ _ t2)
    obtain ⟨c4, t3, i4, pc4, a4, p4, s4, e4, b4, d4⟩ :=
      beq_t3 c3 _ _ bank true false false rfl i3
    refine ⟨?_, _, (host_tick_of _ _ _ r3).trans t3, (sync_qpins _ _ _ _ _ _).2 ⟨rfl, rfl⟩, ?_, ?_⟩
    · intro k hk
      interval_cases k
      · exact h0
      · exact ⟨_, (host_tick_of _ _ _ r1).trans t1, by rw [sync_qpins]; simp⟩
      · exact ⟨_, (host_tick_of _ _ _ r2).trans t2, by rw [sync_qpins]; simp⟩
    · rw [GA_word]
      show c3.AD % 65536 = _
      rw [d3, d2, Nat.mod_mod]
    · show c4.PC = _
      rw [pc4, d3, d2]

/-- C11: for each conditional branch opcode, given with the mask and the value of P under which
it is taken (BPL 0x10: N clear, BMI 0x30: N set, BVC 0x50: V clear, BVS 0x70: V set,
BCC 0x90: C clear, BCS 0xB0: C set, BNE 0xD0: Z clear, BEQ 0xF0: Z set), fetched with no
interrupt pending under the host loop; ticks are counted from the sync tick of the branch
(tick 0).  Not taken: tick 1 issues the next opcode fetch, at the address following the branch
(2 ticks).  Taken with the target in the page of the address following the branch: ticks 0 and
1 issue no fetch and tick 2 issues the fetch at the target (3 ticks).  Taken with the target
in another page: ticks 0 to 2 issue no fetch and tick 3 issues the fetch at the target
(4 ticks).  After a taken branch PC is the target, the address following the branch plus the
offset byte read as a signed byte, modulo 2^16. -/
theorem branch_timing (op mask val : Nat)
    (hop : (op, mask, val) ∈ [(0x10, 0x80, 0x00), (0x30, 0x80, 0x80), (0x50, 0x40, 0x00),
      (0x70, 0x40, 0x40), (0x90, 0x01, 0x00), (0xB0, 0x01, 0x01), (0xD0, 0x02, 0x00),
      (0xF0, 0x02, 0x02)])
    (s : Sys) (a bank : Nat) (rw : Bool)
    (hpins : s.pins = (qpins a op rw true true bank).word)
    (hb : s.cpu.brk_flags = 0) (hi : s.cpu.irq_pip = 0) (hn : s.cpu.nmi_pip = 0) :
    (s.cpu.P &&& mask ≠ val →
      (∃ r, host_tick 0 s = some r ∧ ¬ (r.2 &&& W65816_VPA ≠ 0 ∧ r.2 &&& W65816_VDA ≠ 0)) ∧
      ∃ r, host_tick 1 s = some r ∧ (r.2 &&& W65816_VPA ≠ 0 ∧ r.2 &&& W65816_VDA ≠ 0) ∧
        _GA r.2 = (s.cpu.PC + 2) % 65536 ∧ r.1.PC = (s.cpu.PC + 2) % 65536) ∧
    (s.cpu.P &&& mask = val →
      ((s.cpu.PC + 2) % 65536 +
        SEXT8 (s.mem ((s.cpu.PC + 1) % 65536 + bank % 256 * 65536) % 256)) % 65536 &&& 0xFF00 =
        (s.cpu.PC + 2) % 65536 &&& 0xFF00 →
      (∀ k, k < 2 → ∃ r, host_tick k s = some r ∧
        ¬ (r.2 &&& W65816_VPA ≠ 0 ∧ r.2 &&& W65816_VDA ≠ 0)) ∧
      ∃ r, host_tick 2 s = some r ∧ (r.2 &&& W65816_VPA ≠ 0 ∧ r.2 &&& W65816_VDA ≠ 0) ∧
        _GA r.2 = ((s.cpu.PC + 2) % 65536 +
          SEXT8 (s.mem ((s.cpu.PC + 1) % 65536 + bank % 256 * 65536) % 256)) % 65536 ∧
        r.1.PC = ((s.cpu.PC + 2) % 65536 +
          SEXT8 (s.mem ((s.cpu.PC + 1) % 65536 + bank % 256 * 65536) % 256)) % 65536) ∧
    (s.cpu.P &&& mask = val →
      ((s.cpu.PC + 2) % 65536 +
        SEXT8 (s.mem ((s.cpu.PC + 1) % 65536 + bank % 256 * 65536) % 256)) % 65536 &&& 0xFF00 ≠
        (s.cpu.PC + 2) % 65536 &&& 0xFF00 →
      (∀ k, k < 3 → ∃ r, host_tick k s = some r ∧
        ¬ (r.2 &&& W65816_VPA ≠ 0 ∧ r.2 &&& W65816_VDA ≠ 0)) ∧
      ∃ r, host_tick 3 s = some r ∧ (r.2 &&& W65816_VPA ≠ 0 ∧ r.2 &&& W65816_VDA ≠ 0) ∧
        _GA r.2 = ((s.cpu.PC + 2) % 65536 +
          SEXT8 (s.mem ((s.cpu.PC + 1) % 65536 + bank % 256 * 65536) % 256)) % 65536 ∧
        r.1.PC = ((s.cpu.PC + 2) % 65536 +
          SEXT8 (s.mem ((s.cpu.PC + 1) % 65536 + bank % 256 * 65536) % 256)) % 65536) ∧
    ((((s.cpu.PC + 2) % 65536 +
        SEXT8 (s.mem ((s.cpu.PC + 1) % 65536 + bank % 256 * 65536) % 256)) % 65536 : Nat) : Int) =
      ((((s.cpu.PC + 2) % 65536 : Nat) : Int) +
        (if s.mem ((s.cpu.PC + 1) % 65536 + bank % 256 * 65536) % 256 < 128 then
          ((s.mem ((s.cpu.PC + 1) % 65536 + bank % 256 * 65536) % 256 : Nat) : Int)
         else ((s.mem ((s.cpu.PC + 1) % 65536 + bank % 256 * 65536) % 256 : Nat) : Int) - 256)) %
        65536 := by
  obtain ⟨c, p, mem⟩ := s
  replace hpins : p = (qpins a op rw true true bank).word := hpins
  replace hb : c.brk_flags = 0 := hb
  replace hi : c.irq_pip = 0 := hi
  replace hn : c.nmi_pip = 0 := hn
  rw [hpins]
  have hs := SEXT8_signed ((c.PC + 2) % 65536)
    (mem ((c.PC + 1) % 65536 + bank % 256 * 65536) % 256) (Nat.mod_lt _ (by norm_num))
  simp only [List.mem_cons, Prod.mk.injEq, List.mem_singleton, List.not_mem_nil, or_false] at hop
  rcases hop with h | h | h | h | h | h | h | h
  · obtain ⟨rfl, rfl, rfl⟩ := h
    exact ⟨(bpl_run c mem a bank rw hb hi hn).1, (bpl_run c mem a bank rw hb hi hn).2.1,
      (bpl_run c mem a bank rw hb hi hn).2.2, hs⟩
  · obtain ⟨rfl, rfl, rfl⟩ := h
    exact ⟨(bmi_run c mem a bank rw hb hi hn).1, (bmi_run c mem a bank rw hb hi hn).2.1,
      (bmi_run c mem a bank rw hb hi hn).2.2, hs⟩
  · obtain ⟨rfl, rfl, rfl⟩ := h
    exact ⟨(bvc_run c mem a bank rw hb hi hn).1, (bvc_run c mem a bank rw hb hi hn).2.1,
      (bvc_run c mem a bank rw hb hi hn).2.2, hs⟩
  · obtain ⟨rfl, rfl, rfl⟩ := h
    exact ⟨(bvs_run c mem a bank rw hb hi hn).1, (bvs_run c mem a bank rw hb hi hn).2.1,
      (bvs_run c mem a bank rw hb hi hn).2.2, hs⟩
  · obtain ⟨rfl, rfl, rfl⟩ := h
    exact ⟨(bcc_run c mem a bank rw hb hi hn).1, (bcc_run c mem a bank rw hb hi hn).2.1,
      (bcc_run c mem a bank rw hb hi hn).2.2, hs⟩
  · obtain ⟨rfl, rfl, rfl⟩ := h
    exact ⟨(bcs_run c mem a bank rw hb hi hn).1, (bcs_run c mem a bank rw hb hi hn).2.1,
      (bcs_run c mem a bank rw hb hi hn).2.2, hs⟩
  · obtain ⟨rfl, rfl, rfl⟩ := h
    exact ⟨(bne_run c mem a bank rw hb hi hn).1, (bne_run c mem a bank rw hb hi hn).2.1,
      (bne_run c mem a bank rw hb hi hn).2.2, hs⟩
  · obtain ⟨rfl, rfl, rfl⟩ := h
    exact ⟨(beq_run c mem a bank rw hb hi hn).1, (beq_run c mem a bank rw hb hi hn).2.1,
      (beq_run c mem a bank rw hb hi hn).2.2, hs⟩

theorem branch_timing_witness :
    ∃ r, host_tick 3 (Sys.mk { (w65816_init false).1 with PC := 0x80F2, P := 0x20 }
        (qpins 0x80F2 0xD0 true true true 0).word (fun _ => 0x20)) = some r ∧
      (r.2 &&& W65816_VPA ≠ 0 ∧ r.2 &&& W65816_VDA ≠ 0) ∧ _GA r.2 = 0x8114 ∧ r.1.PC = 0x8114 :=
  ((branch_timing 0xD0 0x02 0x00 (by decide)
    (Sys.mk { (w65816_init false).1 with PC := 0x80F2, P := 0x20 }
      (qpins 0x80F2 0xD0 true true true 0).word (fun _ => 0x20)) 0x80F2 0 true rfl (by decide)
    (by decide) (by decide)).2.2.1 (by decide) (by decide)).2

/-! ## The public pin accessors (lines 354-369) -/

/-- Bit `i` of a field mask of `n` bits at position `k`. -/
theorem testBit_field (n k i : Nat) :
    ((2 ^ n - 1) <<< k).testBit i = decide (k ≤ i ∧ i < k + n) := by
  rw [Nat.testBit_shiftLeft, Nat.testBit_two_pow_sub_one]
  by_cases h : k ≤ i
  · have e : (i - k < n) = (i < k + n) := by
      apply propext; constructor <;> intro h1 <;> omega
    simp [h, e]
  · have : ¬ i ≥ k := h
    simp [h]

theorem testBit_FFFF (i : Nat) : (0xFFFF : Nat).testBit i = decide (i < 16) := by
  have := testBit_field 16 0 i
  simpa using this

theorem testBit_data_mask (i : Nat) :
    (0xFF0000 : Nat).testBit i = decide (16 ≤ i ∧ i < 24) := by
  have := testBit_field 8 16 i
  simpa using this

theorem testBit_bank_mask (i : Nat) :
    (0xFF00000000 : Nat).testBit i = decide (32 ≤ i ∧ i < 40) := by
  have := testBit_field 8 32 i
  simpa using this

theorem testBit_not_addr_mask (i : Nat) :
    (NOT64 0xFF0000FFFF).testBit i = decide ((16 ≤ i ∧ i < 32) ∨ (40 ≤ i ∧ i < 64)) := by
  have e : NOT64 0xFF0000FFFF = ((2 ^ 16 - 1) <<< 16) ||| ((2 ^ 24 - 1) <<< 40) := by decide
  rw [e, Nat.testBit_or, testBit_field, testBit_field]
  simp

theorem testBit_not_data_mask (i : Nat) :
    (NOT64 0xFF0000).testBit i = decide (i < 16 ∨ (24 ≤ i ∧ i < 64)) := by
  have e : NOT64 0xFF0000 = ((2 ^ 16 - 1) <<< 0) ||| ((2 ^ 40 - 1) <<< 24) := by decide
  rw [e, Nat.testBit_or, testBit_field, testBit_field]
  simp

theorem testBit_of_lt (x n i : Nat) (hx : x < 2 ^ n) (hi : n ≤ i) : x.testBit i = false :=
  Nat.testBit_lt_two_pow (Nat.lt_of_lt_of_le hx (Nat.pow_le_pow_right (by decide) hi))

/-- The address read back from a pin word whose address field was replaced by the low 16 bits
and by bits 32-39 of the shifted value of a 24-bit `a`. -/
theorem get_addr_merged (p a : Nat) (ha : a < 2 ^ 24) :
    W65816_GET_ADDR
      ((p &&& NOT64 0xFF0000FFFF) ||| (a &&& 0xFFFF) ||| ((a <<< 16) &&& 0xFF00000000)) = a := by
  apply Nat.eq_of_testBit_eq
  intro i
  simp only [W65816_GET_ADDR, Nat.testBit_or, Nat.testBit_and,
    Nat.testBit_mod_two_pow, Nat.testBit_shiftRight, Nat.testBit_shiftLeft, testBit_FFFF,
    testBit_data_mask, testBit_bank_mask, testBit_not_addr_mask,
    show (0x100000000 : Nat) = 2 ^ 32 from rfl]
  have e : 16 + i - 16 = i := by omega
  rw [e]
  rcases Nat.lt_or_ge i 16 with h | h
  · have h2 : ¬ 16 ≤ i := by omega
    have h3 : i < 32 := by omega
    have h8 : ¬ 40 ≤ i := by omega
    simp [h, h2, h3, h8]
  · rcases Nat.lt_or_ge i 24 with h4 | h4
    · have h2 : ¬ i < 16 := by omega
      have h3 : i < 32 := by omega
      have h5 : ¬ 16 + i < 16 := by omega
      have h6 : 32 ≤ 16 + i := by omega
      have h7 : 16 + i < 40 := by omega
      simp [h, h2, h3, h4, h5, h6, h7]
    · have h2 : ¬ i < 16 := by omega
      have h3 : ¬ i < 24 := by omega
      rw [testBit_of_lt a 24 i ha h4]
      simp [h2, h3]

/-- The shift of a 24-bit address in a 64-bit type loses nothing. -/
theorem c_shl_wide (t : c_type) (a : Nat) (ht : t.bits = 64) (ha : a < 2 ^ 24) :
    c_shl t a 16 = a <<< 16 := by
  have h1 : a <<< 16 < 2 ^ 40 := by
    rw [Nat.shiftLeft_eq]
    omega
  have h2 : (a <<< 16) % 2 ^ 64 = a <<< 16 := Nat.mod_eq_of_lt (by omega)
  simp only [c_shl, ht, h2]
  rw [if_neg (fun h => absurd h.2 (by omega))]

/-- Bits 32-39 of the shift of an address in `uint32_t` are clear. -/
theorem c_shl_uint32_bank (a : Nat) : c_shl c_uint32_t a 16 &&& 0xFF00000000 = 0 := by
  have h : c_shl c_uint32_t a 16 = (a <<< 16) % 2 ^ 32 := by
    simp only [c_shl, c_uint32_t]
    rw [if_neg (fun h => absurd h.1 (by decide))]
  have h1 : (a <<< 16) % 2 ^ 32 < 2 ^ 32 := Nat.mod_lt _ (by decide)
  rw [h, and_bank]
  omega

/-- Bits 32-39 of the shift of an address in `int` repeat bit 15 of the address. -/
theorem c_shl_int_bank (a : Nat) :
    c_shl c_int a 16 &&& 0xFF00000000 = if 0x8000 ≤ a % 0x10000 then 0xFF00000000 else 0 := by
  have e : a <<< 16 = a * 65536 := by rw [Nat.shiftLeft_eq]
  simp only [c_shl, c_int, e]
  by_cases hs : 2 ^ (32 - 1) ≤ a * 65536 % 2 ^ 32
  · rw [if_pos ⟨trivial, hs⟩, and_bank]
    have h2 : 0x8000 ≤ a % 0x10000 := by omega
    rw [if_pos h2]
    omega
  · rw [if_neg (fun h => hs h.2), and_bank]
    have h2 : ¬ 0x8000 ≤ a % 0x10000 := by omega
    rw [if_neg h2]
    omega

/-- With an argument of a 64-bit type the address is read back as it was set. -/
theorem get_set_addr (t : c_type) (p a : Nat) (ht : t.bits = 64) (ha : a < 2 ^ 24) :
    W65816_GET_ADDR (W65816_SET_ADDR t p a) = a := by
  rw [W65816_SET_ADDR, c_shl_wide t a ht ha]
  exact get_addr_merged p a ha

/-- With a `uint32_t` argument the bank byte of the address is lost. -/
theorem get_set_addr_uint32 (p a : Nat) :
    W65816_GET_ADDR (W65816_SET_ADDR c_uint32_t p a) = a % 0x10000 := by
  have h1 : a % 0x10000 &&& 0xFFFF = a &&& 0xFFFF := by
    rw [and_FFFF, and_FFFF]
    omega
  have h2 : ((a % 0x10000) <<< 16) &&& 0xFF00000000 = 0 := by
    rw [Nat.shiftLeft_eq, and_bank]
    omega
  have h := get_addr_merged p (a % 0x10000) (by omega)
  rw [h1, h2] at h
  rw [W65816_SET_ADDR, c_shl_uint32_bank]
  exact h

/-- With an `int` argument the bank byte read back is bit 15 of the address, repeated. -/
theorem get_set_addr_int (p a : Nat) :
    W65816_GET_ADDR (W65816_SET_ADDR c_int p a) =
      a % 0x10000 + (if 0x8000 ≤ a % 0x10000 then 0xFF0000 else 0) := by
  rw [W65816_SET_ADDR, c_shl_int_bank]
  by_cases hs : 0x8000 ≤ a % 0x10000
  · rw [if_pos hs, if_pos hs]
    have h1 : (a % 0x10000 + 0xFF0000) &&& 0xFFFF = a &&& 0xFFFF := by
      rw [and_FFFF, and_FFFF]
      omega
    have h2 : ((a % 0x10000 + 0xFF0000) <<< 16) &&& 0xFF00000000 = 0xFF00000000 := by
      rw [Nat.shiftLeft_eq, and_bank]
      omega
    have h := get_addr_merged p (a % 0x10000 + 0xFF0000) (by omega)
    rw [h1, h2] at h
    exact h
  · rw [if_neg hs, if_neg hs]
    have h1 : (a % 0x10000 + 0) &&& 0xFFFF = a &&& 0xFFFF := by
      rw [and_FFFF, and_FFFF]
      omega
    have h2 : ((a % 0x10000 + 0) <<< 16) &&& 0xFF00000000 = 0 := by
      rw [Nat.shiftLeft_eq, and_bank]
      omega
    have h := get_addr_merged p (a % 0x10000 + 0) (by omega)
    rw [h1, h2] at h
    exact h

theorem get_set_data (p d : Nat) (hd : d < 256) :
    W65816_GET_DATA (W65816_SET_DATA p d) = d := by
  apply Nat.eq_of_testBit_eq
  intro i
  simp only [W65816_GET_DATA, W65816_SET_DATA, Nat.testBit_or, Nat.testBit_and,
    Nat.testBit_mod_two_pow, Nat.testBit_shiftRight, Nat.testBit_shiftLeft,
    testBit_data_mask, testBit_not_data_mask, show (256 : Nat) = 2 ^ 8 from rfl]
  have e : 16 + i - 16 = i := by omega
  rw [e]
  rcases Nat.lt_or_ge i 8 with h | h
  · have h2 : 16 + i < 24 := by omega
    have h3 : ¬ 16 + i < 16 := by omega
    have h4 : ¬ 24 ≤ 16 + i := by omega
    simp [h, h2, h3, h4]
  · have h2 : ¬ i < 8 := by omega
    rw [testBit_of_lt d 8 i hd h]
    simp [h2]

theorem set_addr_frame (t : c_type) (p a i : Nat) (hp : p < 2 ^ 64)
    (hi : ¬ (i < 16 ∨ (32 ≤ i ∧ i < 40))) :
    (W65816_SET_ADDR t p a).testBit i = p.testBit i := by
  simp only [W65816_SET_ADDR, Nat.testBit_or, Nat.testBit_and, Nat.testBit_shiftLeft,
    testBit_FFFF, testBit_bank_mask, testBit_not_addr_mask]
  have h1 : ¬ i < 16 := by omega
  have h2 : ¬ (32 ≤ i ∧ i < 40) := by omega
  rcases Nat.lt_or_ge i 64 with h | h
  · have h3 : (16 ≤ i ∧ i < 32) ∨ (40 ≤ i ∧ i < 64) := by omega
    simp [h1, h2, h3]
  · have h3 : ¬ ((16 ≤ i ∧ i < 32) ∨ (40 ≤ i ∧ i < 64)) := by omega
    rw [testBit_of_lt p 64 i hp h]
    simp [h1, h2, h3]

theorem set_data_frame (p d i : Nat) (hp : p < 2 ^ 64) (hi : ¬ (16 ≤ i ∧ i < 24)) :
    (W65816_SET_DATA p d).testBit i = p.testBit i := by
  simp only [W65816_SET_DATA, Nat.testBit_or, Nat.testBit_and, Nat.testBit_shiftLeft,
    testBit_data_mask, testBit_not_data_mask]
  rcases Nat.lt_or_ge i 64 with h | h
  · have h3 : i < 16 ∨ (24 ≤ i ∧ i < 64) := by omega
    simp [hi, h3]
  · have h3 : ¬ (i < 16 ∨ (24 ≤ i ∧ i < 64)) := by omega
    rw [testBit_of_lt p 64 i hp h]
    simp [hi, h3]

theorem make_pins_bits (t : c_type) (ctrl a d i : Nat) :
    (W65816_MAKE_PINS t ctrl a d).testBit i =
      (ctrl.testBit i ||
        (if i < 16 then a.testBit i
         else if 16 ≤ i ∧ i < 24 then d.testBit (i - 16)
         else if 32 ≤ i ∧ i < 40 then (c_shl t a 16).testBit i
         else false)) := by
  simp only [W65816_MAKE_PINS, Nat.testBit_or, Nat.testBit_and, Nat.testBit_shiftLeft,
    testBit_FFFF, testBit_data_mask, testBit_bank_mask]
  rcases Nat.lt_or_ge i 16 with h | h
  · have h1 : ¬ 16 ≤ i := by omega
    have h2 : ¬ 32 ≤ i := by omega
    simp [h, h1, h2]
  · have h0 : ¬ i < 16 := by omega
    rcases Nat.lt_or_ge i 24 with h4 | h4
    · have h2 : ¬ 32 ≤ i := by omega
      simp [h, h0, h4, h2]
    · have h5 : ¬ i < 24 := by omega
      by_cases h6 : 32 ≤ i ∧ i < 40
      · simp [h, h0, h5, h6]
      · simp [h, h0, h5, h6]

/-- With an address argument of a 64-bit type `W65816_MAKE_PINS` places `a[23:16]` in bits
32-39. -/
theorem make_pins_bits_wide (t : c_type) (ctrl a d i : Nat) (ht : t.bits = 64)
    (ha : a < 2 ^ 24) :
    (W65816_MAKE_PINS t ctrl a d).testBit i =
      (ctrl.testBit i ||
        (if i < 16 then a.testBit i
         else if 16 ≤ i ∧ i < 24 then d.testBit (i - 16)
         else if 32 ≤ i ∧ i < 40 then a.testBit (i - 16)
         else false)) := by
  rw [make_pins_bits, c_shl_wide t a ht ha, Nat.testBit_shiftLeft]
  by_cases h6 : 32 ≤ i ∧ i < 40
  · have h : 16 ≤ i := by omega
    simp [h]
  · simp [h6]

theorem ctrl_bit (ctrl j : Nat) (hc : ctrl &&& 0xFF00FFFFFF = 0)
    (hj : j < 24 ∨ (32 ≤ j ∧ j < 40)) : ctrl.testBit j = false := by
  have h := congrArg (fun x => Nat.testBit x j) hc
  have e : (0xFF00FFFFFF : Nat) = ((2 ^ 24 - 1) <<< 0) ||| ((2 ^ 8 - 1) <<< 32) := by decide
  simp only [Nat.testBit_and, e, Nat.testBit_or, testBit_field, Nat.zero_testBit] at h
  have h2 : (decide (0 ≤ j ∧ j < 0 + 24) || decide (32 ≤ j ∧ j < 32 + 8)) = true := by
    rcases hj with h1 | h1
    · simp [h1]
    · simp [h1]
  rw [h2, Bool.and_true] at h
  exact h

theorem make_pins_get (t : c_type) (ctrl a d : Nat) (ht : t.bits = 64) (ha : a < 2 ^ 24)
    (hd : d < 256) (hc : ctrl &&& 0xFF00FFFFFF = 0) :
    W65816_GET_ADDR (W65816_MAKE_PINS t ctrl a d) = a ∧
    W65816_GET_DATA (W65816_MAKE_PINS t ctrl a d) = d := by
  constructor
  · apply Nat.eq_of_testBit_eq
    intro i
    simp only [W65816_GET_ADDR, Nat.testBit_or, Nat.testBit_and, Nat.testBit_mod_two_pow,
      Nat.testBit_shiftRight, testBit_FFFF, testBit_data_mask,
      make_pins_bits_wide t ctrl a d _ ht ha,
      show (0x100000000 : Nat) = 2 ^ 32 from rfl]
    have e : 16 + i - 16 = i := by omega
    rw [e]
    rcases Nat.lt_or_ge i 16 with h | h
    · have h2 : ¬ 16 ≤ i := by omega
      have h3 : i < 32 := by omega
      rw [ctrl_bit ctrl i hc (by omega)]
      simp [h, h2, h3]
    · rcases Nat.lt_or_ge i 24 with h4 | h4
      · have h2 : ¬ i < 16 := by omega
        have h3 : i < 32 := by omega
        have h5 : ¬ 16 + i < 16 := by omega
        have h6 : 32 ≤ 16 + i := by omega
        have h7 : 16 + i < 40 := by omega
        have h8 : ¬ 16 + i < 24 := by omega
        rw [ctrl_bit ctrl (16 + i) hc (by omega)]
        simp [h, h2, h3, h4, h5, h6, h7, h8]
      · have h2 : ¬ i < 16 := by omega
        have h3 : ¬ i < 24 := by omega
        rw [testBit_of_lt a 24 i ha h4]
        simp [h2, h3]
  · apply Nat.eq_of_testBit_eq
    intro i
    simp only [W65816_GET_DATA, Nat.testBit_and, Nat.testBit_mod_two_pow,
      Nat.testBit_shiftRight, testBit_data_mask, make_pins_bits_wide t ctrl a d _ ht ha,
      show (256 : Nat) = 2 ^ 8 from rfl]
    have e : 16 + i - 16 = i := by omega
    rw [e]
    rcases Nat.lt_or_ge i 8 with h | h
    · have h2 : 16 + i < 24 := by omega
      have h3 : ¬ 16 + i < 16 := by omega
      rw [ctrl_bit ctrl (16 + i) hc (by omega)]
      simp [h, h2, h3]
    · have h2 : ¬ i < 8 := by omega
      rw [testBit_of_lt d 8 i hd h]
      simp [h2]

/-- C23 (what the code does): the macros compute `a<<16` in the C type of the address
argument.  For every 64-bit pin word `p`, every 24-bit address `a` and every byte `d`:
with an argument of a 64-bit type (`uint64_t`) `W65816_GET_ADDR` after `W65816_SET_ADDR(p,a)`
returns `a`; with a `uint32_t` argument, the type `W65816_GET_ADDR` returns, it returns
`a & 0xFFFF`, the bank byte is lost; with an `int` argument (also a promoted `uint16_t`) the
bank byte read back is 0xFF or 0 as bit 15 of `a` is set or clear.  `W65816_GET_DATA` after
`W65816_SET_DATA(p,d)` returns `d`, and each setter leaves every bit outside its own field
(bits 0-15 and 32-39, bits 16-23) as it was, whatever the type.  `W65816_MAKE_PINS(ctrl,a,d)`
is `ctrl` with `a[15:0]` in bits 0-15, `d` in bits 16-23 and bits 32-39 of the shifted address
in bits 32-39: these are `a[23:16]` for a 64-bit type and zero for `uint32_t`.  At the failing
input `uint32_t a = 0x123456`, `p = 0`: the address read back is 0x003456. -/
theorem pin_accessors_by_argument_type (t : c_type) (p a d : Nat) (hp : p < 2 ^ 64)
    (ha : a < 2 ^ 24) (hd : d < 256) :
    (t.bits = 64 → W65816_GET_ADDR (W65816_SET_ADDR t p a) = a) ∧
    W65816_GET_ADDR (W65816_SET_ADDR c_uint64_t p a) = a ∧
    W65816_GET_ADDR (W65816_SET_ADDR c_uint32_t p a) = a % 0x10000 ∧
    W65816_GET_ADDR (W65816_SET_ADDR c_int p a) =
      a % 0x10000 + (if 0x8000 ≤ a % 0x10000 then 0xFF0000 else 0) ∧
    W65816_GET_DATA (W65816_SET_DATA p d) = d ∧
    (∀ i, ¬ (i < 16 ∨ (32 ≤ i ∧ i < 40)) → (W65816_SET_ADDR t p a).testBit i = p.testBit i) ∧
    (∀ i, ¬ (16 ≤ i ∧ i < 24) → (W65816_SET_DATA p d).testBit i = p.testBit i) ∧
    (∀ ctrl i, (W65816_MAKE_PINS t ctrl a d).testBit i =
      (ctrl.testBit i ||
        (if i < 16 then a.testBit i
         else if 16 ≤ i ∧ i < 24 then d.testBit (i - 16)
         else if 32 ≤ i ∧ i < 40 then (c_shl t a 16).testBit i
         else false))) ∧
    (t.bits = 64 → ∀ ctrl i, (W65816_MAKE_PINS t ctrl a d).testBit i =
      (ctrl.testBit i ||
        (if i < 16 then a.testBit i
         else if 16 ≤ i ∧ i < 24 then d.testBit (i - 16)
         else if 32 ≤ i ∧ i < 40 then a.testBit (i - 16)
         else false))) ∧
    (∀ ctrl i, 32 ≤ i → i < 40 → ctrl.testBit i = false →
      (W65816_MAKE_PINS c_uint32_t ctrl a d).testBit i = false) ∧
    (t.bits = 64 → ∀ ctrl, ctrl &&& 0xFF00FFFFFF = 0 →
      W65816_GET_ADDR (W65816_MAKE_PINS t ctrl a d) = a ∧
      W65816_GET_DATA (W65816_MAKE_PINS t ctrl a d) = d) ∧
    W65816_GET_ADDR (W65816_SET_ADDR c_uint32_t 0 0x123456) = 0x003456 ∧
    W65816_MAKE_PINS c_uint32_t 0x07000000 0x123456 0xC3 = 0x0007C33456 := by
  refine ⟨fun ht => get_set_addr t p a ht ha, get_set_addr c_uint64_t p a rfl ha,
    get_set_addr_uint32 p a, get_set_addr_int p a, get_set_data p d hd,
    fun i hi => set_addr_frame t p a i hp hi, fun i hi => set_data_frame p d i hp hi,
    fun ctrl i => make_pins_bits t ctrl a d i,
    fun ht ctrl i => make_pins_bits_wide t ctrl a d i ht ha, ?_,
    fun ht ctrl hc => make_pins_get t ctrl a d ht ha hd hc, by decide, by decide⟩
  intro ctrl i h1 h2 hc
  have h3 : ¬ i < 16 := by omega
  have h4 : ¬ (16 ≤ i ∧ i < 24) := by omega
  have h5 : (c_shl c_uint32_t a 16).testBit i = false := by
    have h := congrArg (fun x => Nat.testBit x i) (c_shl_uint32_bank a)
    simp only [Nat.testBit_and, testBit_bank_mask, Nat.zero_testBit] at h
    simpa [h1, h2] using h
  rw [make_pins_bits, hc, if_neg h3, if_neg h4, if_pos ⟨h1, h2⟩, h5]
  rfl

theorem pin_accessors_by_argument_type_witness :
    W65816_GET_ADDR (W65816_SET_ADDR c_uint64_t 0x4A7655AA1234 0x123456) = 0x123456 ∧
    W65816_GET_ADDR (W65816_SET_ADDR c_uint32_t 0x4A7655AA1234 0x123456) = 0x003456 ∧
    W65816_GET_ADDR (W65816_SET_ADDR c_int 0x4A7655AA1234 0x12C456) = 0xFFC456 ∧
    W65816_GET_DATA (W65816_SET_DATA 0x4A7655AA1234 0xC3) = 0xC3 ∧
    W65816_MAKE_PINS c_uint64_t 0x07000000 0x123456 0xC3 = 0x1207C33456 :=
  ⟨(pin_accessors_by_argument_type c_uint64_t 0x4A7655AA1234 0x123456 0xC3 (by decide)
      (by decide) (by decide)).2.1,
    (pin_accessors_by_argument_type c_uint64_t 0x4A7655AA1234 0x123456 0xC3 (by decide)
      (by decide) (by decide)).2.2.1,
    (pin_accessors_by_argument_type c_uint64_t 0x4A7655AA1234 0x12C456 0xC3 (by decide)
      (by decide) (by decide)).2.2.2.1,
    (pin_accessors_by_argument_type c_uint64_t 0x4A7655AA1234 0x123456 0xC3 (by decide)
      (by decide) (by decide)).2.2.2.2.1,
    by decide⟩

/-! ## Sub-cycles of the decoder

Every decoder case that is not `assert(false)` leaves `bcd_enabled` as it was, and it either
issues the opcode fetch (`_FETCH()`, VPA and VDA set) or leaves `IR` at a case of the same
opcode that is not `assert(false)` either: the next one, or the one after it where the case
skips a sub-cycle with `c->IR+=...&1`. -/

set_option linter.unusedTactic false
set_option linter.unreachableTactic false
set_option linter.unnecessarySeqFocus false
set_option linter.unusedVariables false

theorem ite_IR_of (p : Prop) [Decidable p] (a b : w65816_t) (x : Nat)
    (ha : a.IR = x) (hb : b.IR = x) : (if p then a else b).IR = x := by
  split_ifs <;> assumption

theorem ite_fst_IR_of (p : Prop) [Decidable p] (a b : w65816_t × Nat) (x : Nat)
    (ha : a.1.IR = x) (hb : b.1.IR = x) : (if p then a else b).1.IR = x := by
  split_ifs <;> assumption

theorem ite_bcd_of (p : Prop) [Decidable p] (a b : w65816_t) (x : Nat)
    (ha : a.bcd_enabled = x) (hb : b.bcd_enabled = x) : (if p then a else b).bcd_enabled = x := by
  split_ifs <;> assumption

theorem ite_fst_bcd_of (p : Prop) [Decidable p] (a b : w65816_t × Nat) (x : Nat)
    (ha : a.1.bcd_enabled = x) (hb : b.1.bcd_enabled = x) :
    (if p then a else b).1.bcd_enabled = x := by
  split_ifs <;> assumption

theorem fetch_sync (c : w65816_t) (p : Nat) : sync_out (_FETCH c p) = true := by
  have h1 : (_FETCH c p).testBit 25 = true := by
    unfold _FETCH _ON
    rw [Nat.testBit_or, show (W65816_VPA ||| W65816_VDA).testBit 25 = true by decide, Bool.or_true]
  have h2 : (_FETCH c p).testBit 26 = true := by
    unfold _FETCH _ON
    rw [Nat.testBit_or, show (W65816_VPA ||| W65816_VDA).testBit 26 = true by decide, Bool.or_true]
  unfold sync_out
  rw [decide_eq_true_eq]
  exact ⟨(flag_ne _ 25).2 h1, (flag_ne _ 26).2 h2⟩

/-- Frame of a decoder case whose only state update stores `v` into `X` (the decrements
`c->X--` of MVP): stated on a variable `v`, so that the kernel compares no decrement. -/
theorem dec_X_frame (c : w65816_t) (v p : Nat) :
    (({ c with X := v } : w65816_t), p).1.bcd_enabled = c.bcd_enabled ∧
    (({ c with X := v } : w65816_t), p).1.IR = c.IR := ⟨rfl, rfl⟩

theorem dec_Y_frame (c : w65816_t) (v p : Nat) :
    (({ c with Y := v } : w65816_t), p).1.bcd_enabled = c.bcd_enabled ∧
    (({ c with Y := v } : w65816_t), p).1.IR = c.IR := ⟨rfl, rfl⟩

theorem dec_AD_NZ_frame (c : w65816_t) (v w p : Nat) :
    (_NZ ({ c with AD := v } : w65816_t) w, p).1.bcd_enabled = c.bcd_enabled ∧
    (_NZ ({ c with AD := v } : w65816_t) w, p).1.IR = c.IR := ⟨rfl, rfl⟩

theorem skip_IR (x n : Nat) :
    (x + (n &&& 1)) % 65536 = (x + 0) % 65536 ∨ (x + (n &&& 1)) % 65536 = (x + 1) % 65536 := by
  have h : n &&& 1 = n % 2 := by simp
  rw [h]
  rcases Nat.mod_two_eq_zero_or_one n with h0 | h1
  · rw [h0]; exact Or.inl rfl
  · rw [h1]; exact Or.inr rfl

theorem adc_IR_of (c : w65816_t) (v x : Nat) (h : c.IR = x) :
    (_w65816_adc c v).IR = x := by
  subst h
  unfold _w65816_adc set_A
  dsimp only []
  repeat' (first | apply ite_IR_of | rfl)

theorem adc_bcd_of (c : w65816_t) (v x : Nat) (h : c.bcd_enabled = x) :
    (_w65816_adc c v).bcd_enabled = x := by
  subst h
  unfold _w65816_adc set_A
  dsimp only []
  repeat' (first | apply ite_bcd_of | rfl)

theorem sbc_IR_of (c : w65816_t) (v x : Nat) (h : c.IR = x) :
    (_w65816_sbc c v).IR = x := by
  subst h
  unfold _w65816_sbc set_A
  dsimp only []
  repeat' (first | apply ite_IR_of | rfl)

theorem sbc_bcd_of (c : w65816_t) (v x : Nat) (h : c.bcd_enabled = x) :
    (_w65816_sbc c v).bcd_enabled = x := by
  subst h
  unfold _w65816_sbc set_A
  dsimp only []
  repeat' (first | apply ite_bcd_of | rfl)

theorem bit_IR_of (c : w65816_t) (v x : Nat) (h : c.IR = x) :
    (_w65816_bit c v).IR = x := by
  subst h
  unfold _w65816_bit
  dsimp only []
  repeat' (first | apply ite_IR_of | rfl)

theorem bit_bcd_of (c : w65816_t) (v x : Nat) (h : c.bcd_enabled = x) :
    (_w65816_bit c v).bcd_enabled = x := by
  subst h
  unfold _w65816_bit
  dsimp only []
  repeat' (first | apply ite_bcd_of | rfl)

theorem rol_IR_of (c : w65816_t) (v x : Nat) (h : c.IR = x) :
    (_w65816_rol c v).1.IR = x := by
  subst h
  unfold _w65816_rol
  dsimp only []
  repeat' (first | apply ite_IR_of | rfl)

theorem rol_bcd_of (c : w65816_t) (v x : Nat) (h : c.bcd_enabled = x) :
    (_w65816_rol c v).1.bcd_enabled = x := by
  subst h
  unfold _w65816_rol
  dsimp only []
  repeat' (first | apply ite_bcd_of | rfl)

theorem ror_IR_of (c : w65816_t) (v x : Nat) (h : c.IR = x) :
    (_w65816_ror c v).1.IR = x := by
  subst h
  unfold _w65816_ror
  dsimp only []
  repeat' (first | apply ite_IR_of | rfl)

theorem ror_bcd_of (c : w65816_t) (v x : Nat) (h : c.bcd_enabled = x) :
    (_w65816_ror c v).1.bcd_enabled = x := by
  subst h
  unfold _w65816_ror
  dsimp only []
  repeat' (first | apply ite_bcd_of | rfl)

theorem xce_IR_of (c : w65816_t) (x : Nat) (h : c.IR = x) :
    (_w65816_xce c).IR = x := by
  subst h
  unfold _w65816_xce
  dsimp only []
  repeat' (first | apply ite_IR_of | rfl)

theorem xce_bcd_of (c : w65816_t) (x : Nat) (h : c.bcd_enabled = x) :
    (_w65816_xce c).bcd_enabled = x := by
  subst h
  unfold _w65816_xce
  dsimp only []
  repeat' (first | apply ite_bcd_of | rfl)

theorem op_00_isSome (step : Nat) (c : w65816_t) (pins : Nat) :
    (op_00 step c pins).isSome = (op_00 step (w65816_init false).1 0).isSome := by
  unfold op_00
  split <;> first | exact Eq.refl true | exact Eq.refl false

theorem op_00_live (step : Nat) (c : w65816_t) (pins : Nat) (r : w65816_t × Nat)
    (h : op_00 step c pins = some r) :
    r.1.bcd_enabled = c.bcd_enabled ∧
    (sync_out r.2 = true ∨
      (r.1.IR = c.IR ∧ step + 1 < 8 ∧ (op_00 (step + 1) (w65816_init false).1 0).isSome = true) ∨
      ((r.1.IR = (c.IR + 0) % 65536 ∨ r.1.IR = (c.IR + 1) % 65536) ∧ step + 2 < 8 ∧
        (op_00 (step + 1) (w65816_init false).1 0).isSome = true ∧ (op_00 (step + 2) (w65816_init false).1 0).isSome = true)) := by
  unfold op_00 at h
  split at h
  case h_8 => exact Option.noConfusion h
  all_goals cases h
  all_goals refine ⟨(by
    first
    | (dsimp only [set_S] <;>
       repeat' (first | apply ite_bcd_of | apply ite_fst_bcd_of | rfl))
    | rfl), ?_⟩
  case h_7 => exact Or.inl (fetch_sync _ _)
  all_goals exact Or.inr (Or.inl ⟨(by
    first
    | (dsimp only [set_S] <;>
       repeat' (first | apply ite_IR_of | apply ite_fst_IR_of | rfl))
    | rfl), by decide, Eq.refl true⟩)

theorem op_01_isSome (step : Nat) (c : w65816_t) (pins : Nat) :
    (op_01 step c pins).isSome = (op_01 step (w65816_init false).1 0).isSome := by
  unfold op_01
  split <;> first | exact Eq.refl true | exact Eq.refl false

theorem op_01_live (step : Nat) (c : w65816_t) (pins : Nat) (r : w65816_t × Nat)
    (h : op_01 step c pins = some r) :
    r.1.bcd_enabled = c.bcd_enabled ∧
    (sync_out r.2 = true ∨
      (r.1.IR = c.IR ∧ step + 1 < 8 ∧ (op_01 (step + 1) (w65816_init false).1 0).isSome = true) ∨
      ((r.1.IR = (c.IR + 0) % 65536 ∨ r.1.IR = (c.IR + 1) % 65536) ∧ step + 2 < 8 ∧
        (op_01 (step + 1) (w65816_init false).1 0).isSome = true ∧ (op_01 (step + 2) (w65816_init false).1 0).isSome = true)) := by
  unfold op_01 at h
  split at h
  case h_7 => exact Option.noConfusion h
  all_goals cases h
  all_goals refine ⟨(by
    first
    | (dsimp only [set_A, _NZ] <;>
       repeat' (first | apply ite_bcd_of | apply ite_fst_bcd_of | rfl))
    | rfl), ?_⟩
  case h_6 => exact Or.inl (fetch_sync _ _)
  all_goals exact Or.inr (Or.inl ⟨(by
    first
    | (dsimp only [set_A, _NZ] <;>
       repeat' (first | apply ite_IR_of | apply ite_fst_IR_of | rfl))
    | rfl), by decide, Eq.refl true⟩)

theorem op_02_isSome (step : Nat) (c : w65816_t) (pins : Nat) :
    (op_02 step c pins).isSome = (op_02 step (w65816_init false).1 0).isSome := by
  unfold op_02
  split <;> first | exact Eq.refl true | exact Eq.refl false

theorem op_02_live (step : Nat) (c : w65816_t) (pins : Nat) (r : w65816_t × Nat)
    (h : op_02 step c pins = some r) :
    r.1.bcd_enabled = c.bcd_enabled ∧
    (sync_out r.2 = true ∨
      (r.1.IR = c.IR ∧ step + 1 < 8 ∧ (op_02 (step + 1) (w65816_init false).1 0).isSome = true) ∨
      ((r.1.IR = (c.IR + 0) % 65536 ∨ r.1.IR = (c.IR + 1) % 65536) ∧ step + 2 < 8 ∧
        (op_02 (step + 1) (w65816_init false).1 0).isSome = true ∧ (op_02 (step + 2) (w65816_init false).1 0).isSome = true)) := by
  unfold op_02 at h
  split at h
  case h_9 => exact Option.noConfusion h
  all_goals cases h
  all_goals refine ⟨(by
    first
    | (dsimp only [set_S] <;>
       repeat' (first | apply ite_bcd_of | apply ite_fst_bcd_of | rfl))
    | rfl), ?_⟩
  case h_8 => exact Or.inl (fetch_sync _ _)
  all_goals exact Or.inr (Or.inl ⟨(by
    first
    | (dsimp only [set_S] <;>
       repeat' (first | apply ite_IR_of | apply ite_fst_IR_of | rfl))
    | rfl), by decide, Eq.refl true⟩)

theorem op_03_isSome (step : Nat) (c : w65816_t) (pins : Nat) :
    (op_03 step c pins).isSome = (op_03 step (w65816_init false).1 0).isSome := by
  unfold op_03
  split <;> first | exact Eq.refl true | exact Eq.refl false

theorem op_03_live (step : Nat) (c : w65816_t) (pins : Nat) (r : w65816_t × Nat)
    (h : op_03 step c pins = some r) :
    r.1.bcd_enabled = c.bcd_enabled ∧
    (sync_out r.2 = true ∨
      (r.1.IR = c.IR ∧ step + 1 < 8 ∧ (op_03 (step + 1) (w65816_init false).1 0).isSome = true) ∨
      ((r.1.IR = (c.IR + 0) % 65536 ∨ r.1.IR = (c.IR + 1) % 65536) ∧ step + 2 < 8 ∧
        (op_03 (step + 1) (w65816_init false).1 0).isSome = true ∧ (op_03 (step + 2) (w65816_init false).1 0).isSome = true)) := by
  unfold op_03 at h
  split at h
  case h_4 => exact Option.noConfusion h
  all_goals cases h
  all_goals refine ⟨(by
    first
    | (dsimp only [set_A, _NZ] <;>
       repeat' (first | apply ite_bcd_of | apply ite_fst_bcd_of | rfl))
    | rfl), ?_⟩
  case h_3 => exact Or.inl (fetch_sync _ _)
  all_goals exact Or.inr (Or.inl ⟨(by
    first
    | (dsimp only [set_A, _NZ] <;>
       repeat' (first | apply ite_IR_of | apply ite_fst_IR_of | rfl))
    | rfl), by decide, Eq.refl true⟩)

theorem op_04_isSome (step : Nat) (c : w65816_t) (pins : Nat) :
    (op_04 step c pins).isSome = (op_04 step (w65816_init false).1 0).isSome := by
  unfold op_04
  split <;> first | exact Eq.refl true | exact Eq.refl false

theorem op_04_live (step : Nat) (c : w65816_t) (pins : Nat) (r : w65816_t × Nat)
    (h : op_04 step c pins = some r) :
    r.1.bcd_enabled = c.bcd_enabled ∧
    (sync_out r.2 = true ∨
      (r.1.IR = c.IR ∧ step + 1 < 8 ∧ (op_04 (step + 1) (w65816_init false).1 0).isSome = true) ∨
      ((r.1.IR = (c.IR + 0) % 65536 ∨ r.1.IR = (c.IR + 1) % 65536) ∧ step + 2 < 8 ∧
        (op_04 (step + 1) (w65816_init false).1 0).isSome = true ∧ (op_04 (step + 2) (w65816_init false).1 0).isSome = true)) := by
  unfold op_04 at h
  split at h
  case h_6 => exact Option.noConfusion h
  all_goals cases h
  all_goals refine ⟨(by
    first
    | (dsimp only [_Z] <;>
       repeat' (first | apply ite_bcd_of | apply ite_fst_bcd_of | rfl))
    | rfl), ?_⟩
  case h_5 => exact Or.inl (fetch_sync _ _)
  all_goals exact Or.inr (Or.inl ⟨(by
    first
    | (dsimp only [_Z] <;>
       repeat' (first | apply ite_IR_of | apply ite_fst_IR_of | rfl))
    | rfl), by decide, Eq.refl true⟩)

theorem op_05_isSome (step : Nat) (c : w65816_t) (pins : Nat) :
    (op_05 step c pins).isSome = (op_05 step (w65816_init false).1 0).isSome := by
  unfold op_05
  split <;> first | exact Eq.refl true | exact Eq.refl false

theorem op_05_live (step : Nat) (c : w65816_t) (pins : Nat) (r : w65816_t × Nat)
    (h : op_05 step c pins = some r) :
    r.1.bcd_enabled = c.bcd_enabled ∧
    (sync_out r.2 = true ∨
      (r.1.IR = c.IR ∧ step + 1 < 8 ∧ (op_05 (step + 1) (w65816_init false).1 0).isSome = true) ∨
      ((r.1.IR = (c.IR + 0) % 65536 ∨ r.1.IR = (c.IR + 1) % 65536) ∧ step + 2 < 8 ∧
        (op_05 (step + 1) (w65816_init false).1 0).isSome = true ∧ (op_05 (step + 2) (w65816_init false).1 0).isSome = true)) := by
  unfold op_05 at h
  split at h
  case h_4 => exact Option.noConfusion h
  all_goals cases h
  all_goals refine ⟨(by
    first
    | (dsimp only [set_A, _NZ] <;>
       repeat' (first | apply ite_bcd_of | apply ite_fst_bcd_of | rfl))
    | rfl), ?_⟩
  case h_3 => exact Or.inl (fetch_sync _ _)
  all_goals exact Or.inr (Or.inl ⟨(by
    first
    | (dsimp only [set_A, _NZ] <;>
       repeat' (first | apply ite_IR_of | apply ite_fst_IR_of | rfl))
    | rfl), by decide, Eq.refl true⟩)

theorem op_06_isSome (step : Nat) (c : w65816_t) (pins : Nat) :
    (op_06 step c pins).isSome = (op_06 step (w65816_init false).1 0).isSome := by
  unfold op_06
  split <;> first | exact Eq.refl true | exact Eq.refl false

theorem op_06_live (step : Nat) (c : w65816_t) (pins : Nat) (r : w65816_t × Nat)
    (h : op_06 step c pins = some r) :
    r.1.bcd_enabled = c.bcd_enabled ∧
    (sync_out r.2 = true ∨
      (r.1.IR = c.IR ∧ step + 1 < 8 ∧ (op_06 (step + 1) (w65816_init false).1 0).isSome = true) ∨
      ((r.1.IR = (c.IR + 0) % 65536 ∨ r.1.IR = (c.IR + 1) % 65536) ∧ step + 2 < 8 ∧
        (op_06 (step + 1) (w65816_init false).1 0).isSome = true ∧ (op_06 (step + 2) (w65816_init false).1 0).isSome = true)) := by
  unfold op_06 at h
  split at h
  case h_6 => exact Option.noConfusion h
  all_goals cases h
  all_goals refine ⟨(by
    first
    | (dsimp only [_w65816_asl] <;>
       repeat' (first | apply ite_bcd_of | apply ite_fst_bcd_of | rfl))
    | rfl), ?_⟩
  case h_5 => exact Or.inl (fetch_sync _ _)
  all_goals exact Or.inr (Or.inl ⟨(by
    first
    | (dsimp only [_w65816_asl] <;>
       repeat' (first | apply ite_IR_of | apply ite_fst_IR_of | rfl))
    | rfl), by decide, Eq.refl true⟩)

theorem op_07_isSome (step : Nat) (c : w65816_t) (pins : Nat) :
    (op_07 step c pins).isSome = (op_07 step (w65816_init false).1 0).isSome := by
  unfold op_07
  split <;> first | exact Eq.refl true | exact Eq.refl false

theorem op_07_live (step : Nat) (c : w65816_t) (pins : Nat) (r : w65816_t × Nat)
    (h : op_07 step c pins = some r) :
    r.1.bcd_enabled = c.bcd_enabled ∧
    (sync_out r.2 = true ∨
      (r.1.IR = c.IR ∧ step + 1 < 8 ∧ (op_07 (step + 1) (w65816_init false).1 0).isSome = true) ∨
      ((r.1.IR = (c.IR + 0) % 65536 ∨ r.1.IR = (c.IR + 1) % 65536) ∧ step + 2 < 8 ∧
        (op_07 (step + 1) (w65816_init false).1 0).isSome = true ∧ (op_07 (step + 2) (w65816_init false).1 0).isSome = true)) := by
  unfold op_07 at h
  split at h
  case h_4 => exact Option.noConfusion h
  all_goals cases h
  all_goals refine ⟨(by
    first
    | (dsimp only [set_A, _NZ] <;>
       repeat' (first | apply ite_bcd_of | apply ite_fst_bcd_of | rfl))
    | rfl), ?_⟩
  case h_3 => exact Or.inl (fetch_sync _ _)
  all_goals exact Or.inr (Or.inl ⟨(by
    first
    | (dsimp only [set_A, _NZ] <;>
       repeat' (first | apply ite_IR_of | apply ite_fst_IR_of | rfl))
    | rfl), by decide, Eq.refl true⟩)

theorem op_08_isSome (step : Nat) (c : w65816_t) (pins : Nat) :
    (op_08 step c pins).isSome = (op_08 step (w65816_init false).1 0).isSome := by
  unfold op_08
  split <;> first | exact Eq.refl true | exact Eq.refl false

theorem op_08_live (step : Nat) (c : w65816_t) (pins : Nat) (r : w65816_t × Nat)
    (h : op_08 step c pins = some r) :
    r.1.bcd_enabled = c.bcd_enabled ∧
    (sync_out r.2 = true ∨
      (r.1.IR = c.IR ∧ step + 1 < 8 ∧ (op_08 (step + 1) (w65816_init false).1 0).isSome = true) ∨
      ((r.1.IR = (c.IR + 0) % 65536 ∨ r.1.IR = (c.IR + 1) % 65536) ∧ step + 2 < 8 ∧
        (op_08 (step + 1) (w65816_init false).1 0).isSome = true ∧ (op_08 (step + 2) (w65816_init false).1 0).isSome = true)) := by
  unfold op_08 at h
  split at h
  case h_4 => exact Option.noConfusion h
  all_goals cases h
  all_goals refine ⟨(by
    first
    | (dsimp only [set_S] <;>
       repeat' (first | apply ite_bcd_of | apply ite_fst_bcd_of | rfl))
    | rfl), ?_⟩
  case h_3 => exact Or.inl (fetch_sync _ _)
  all_goals exact Or.inr (Or.inl ⟨(by
    first
    | (dsimp only [set_S] <;>
       repeat' (first | apply ite_IR_of | apply ite_fst_IR_of | rfl))
    | rfl), by decide, Eq.refl true⟩)

theorem op_09_isSome (step : Nat) (c : w65816_t) (pins : Nat) :
    (op_09 step c pins).isSome = (op_09 step (w65816_init false).1 0).isSome := by
  unfold op_09
  split <;> first | exact Eq.refl true | exact Eq.refl false

theorem op_09_live (step : Nat) (c : w65816_t) (pins : Nat) (r : w65816_t × Nat)
    (h : op_09 step c pins = some r) :
    r.1.bcd_enabled = c.bcd_enabled ∧
    (sync_out r.2 = true ∨
      (r.1.IR = c.IR ∧ step + 1 < 8 ∧ (op_09 (step + 1) (w65816_init false).1 0).isSome = true) ∨
      ((r.1.IR = (c.IR + 0) % 65536 ∨ r.1.IR = (c.IR + 1) % 65536) ∧ step + 2 < 8 ∧
        (op_09 (step + 1) (w65816_init false).1 0).isSome = true ∧ (op_09 (step + 2) (w65816_init false).1 0).isSome = true)) := by
  unfold op_09 at h
  split at h
  case h_3 => exact Option.noConfusion h
  all_goals cases h
  all_goals refine ⟨(by
    first
    | (dsimp only [set_A, _NZ] <;>
       repeat' (first | apply ite_bcd_of | apply ite_fst_bcd_of | rfl))
    | rfl), ?_⟩
  case h_2 => exact Or.inl (fetch_sync _ _)
  all_goals exact Or.inr (Or.inl ⟨(by
    first
    | (dsimp only [set_A, _NZ] <;>
       repeat' (first | apply ite_IR_of | apply ite_fst_IR_of | rfl))
    | rfl), by decide, Eq.refl true⟩)

theorem op_0A_isSome (step : Nat) (c : w65816_t) (pins : Nat) :
    (op_0A step c pins).isSome = (op_0A step (w65816_init false).1 0).isSome := by
  unfold op_0A
  split <;> first | exact Eq.refl true | exact Eq.refl false

theorem op_0A_live (step : Nat) (c : w65816_t) (pins : Nat) (r : w65816_t × Nat)
    (h : op_0A step c pins = some r) :
    r.1.bcd_enabled = c.bcd_enabled ∧
    (sync_out r.2 = true ∨
      (r.1.IR = c.IR ∧ step + 1 < 8 ∧ (op_0A (step + 1) (w65816_init false).1 0).isSome = true) ∨
      ((r.1.IR = (c.IR + 0) % 65536 ∨ r.1.IR = (c.IR + 1) % 65536) ∧ step + 2 < 8 ∧
        (op_0A (step + 1) (w65816_init false).1 0).isSome = true ∧ (op_0A (step + 2) (w65816_init false).1 0).isSome = true)) := by
  unfold op_0A at h
  split at h
  case h_3 => exact Option.noConfusion h
  all_goals cases h
  all_goals refine ⟨(by
    first
    | (dsimp only [set_A, _w65816_asl] <;>
       repeat' (first | apply ite_bcd_of | apply ite_fst_bcd_of | rfl))
    | rfl), ?_⟩
  case h_2 => exact Or.inl (fetch_sync _ _)
  all_goals exact Or.inr (Or.inl ⟨(by
    first
    | (dsimp only [set_A, _w65816_asl] <;>
       repeat' (first | apply ite_IR_of | apply ite_fst_IR_of | rfl))
    | rfl), by decide, Eq.refl true⟩)

theorem op_0B_isSome (step : Nat) (c : w65816_t) (pins : Nat) :
    (op_0B step c pins).isSome = (op_0B step (w65816_init false).1 0).isSome := by
  unfold op_0B
  split <;> first | exact Eq.refl true | exact Eq.refl false

theorem op_0B_live (step : Nat) (c : w65816_t) (pins : Nat) (r : w65816_t × Nat)
    (h : op_0B step c pins = some r) :
    r.1.bcd_enabled = c.bcd_enabled ∧
    (sync_out r.2 = true ∨
      (r.1.IR = c.IR ∧ step + 1 < 8 ∧ (op_0B (step + 1) (w65816_init false).1 0).isSome = true) ∨
      ((r.1.IR = (c.IR + 0) % 65536 ∨ r.1.IR = (c.IR + 1) % 65536) ∧ step + 2 < 8 ∧
        (op_0B (step + 1) (w65816_init false).1 0).isSome = true ∧ (op_0B (step + 2) (w65816_init false).1 0).isSome = true)) := by
  unfold op_0B at h
  split at h
  case h_5 => exact Option.noConfusion h
  all_goals cases h
  all_goals refine ⟨(by
    first
    | (dsimp only [set_S] <;>
       repeat' (first | apply ite_bcd_of | apply ite_fst_bcd_of | rfl))
    | rfl), ?_⟩
  case h_4 => exact Or.inl (fetch_sync _ _)
  all_goals exact Or.inr (Or.inl ⟨(by
    first
    | (dsimp only [set_S] <;>
       repeat' (first | apply ite_IR_of | apply ite_fst_IR_of | rfl))
    | rfl), by decide, Eq.refl true⟩)

theorem op_0C_isSome (step : Nat) (c : w65816_t) (pins : Nat) :
    (op_0C step c pins).isSome = (op_0C step (w65816_init false).1 0).isSome := by
  unfold op_0C
  split <;> first | exact Eq.refl true | exact Eq.refl false

theorem op_0C_live (step : Nat) (c : w65816_t) (pins : Nat) (r : w65816_t × Nat)
    (h : op_0C step c pins = some r) :
    r.1.bcd_enabled = c.bcd_enabled ∧
    (sync_out r.2 = true ∨
      (r.1.IR = c.IR ∧ step + 1 < 8 ∧ (op_0C (step + 1) (w65816_init false).1 0).isSome = true) ∨
      ((r.1.IR = (c.IR + 0) % 65536 ∨ r.1.IR = (c.IR + 1) % 65536) ∧ step + 2 < 8 ∧
        (op_0C (step + 1) (w65816_init false).1 0).isSome = true ∧ (op_0C (step + 2) (w65816_init false).1 0).isSome = true)) := by
  unfold op_0C at h
  split at h
  case h_7 => exact Option.noConfusion h
  all_goals cases h
  all_goals refine ⟨(by
    first
    | (dsimp only [_Z] <;>
       repeat' (first | apply ite_bcd_of | apply ite_fst_bcd_of | rfl))
    | rfl), ?_⟩
  case h_6 => exact Or.inl (fetch_sync _ _)
  all_goals exact Or.inr (Or.inl ⟨(by
    first
    | (dsimp only [_Z] <;>
       repeat' (first | apply ite_IR_of | apply ite_fst_IR_of | rfl))
    | rfl), by decide, Eq.refl true⟩)

theorem op_0D_isSome (step : Nat) (c : w65816_t) (pins : Nat) :
    (op_0D step c pins).isSome = (op_0D step (w65816_init false).1 0).isSome := by
  unfold op_0D
  split <;> first | exact Eq.refl true | exact Eq.refl false

theorem op_0D_live (step : Nat) (c : w65816_t) (pins : Nat) (r : w65816_t × Nat)
    (h : op_0D step c pins = some r) :
    r.1.bcd_enabled = c.bcd_enabled ∧
    (sync_out r.2 = true ∨
      (r.1.IR = c.IR ∧ step + 1 < 8 ∧ (op_0D (step + 1) (w65816_init false).1 0).isSome = true) ∨
      ((r.1.IR = (c.IR + 0) % 65536 ∨ r.1.IR = (c.IR + 1) % 65536) ∧ step + 2 < 8 ∧
        (op_0D (step + 1) (w65816_init false).1 0).isSome = true ∧ (op_0D (step + 2) (w65816_init false).1 0).isSome = true)) := by
  unfold op_0D at h
  split at h
  case h_5 => exact Option.noConfusion h
  all_goals cases h
  all_goals refine ⟨(by
    first
    | (dsimp only [set_A, _NZ] <;>
       repeat' (first | apply ite_bcd_of | apply ite_fst_bcd_of | rfl))
    | rfl), ?_⟩
  case h_4 => exact Or.inl (fetch_sync _ _)
  all_goals exact Or.inr (Or.inl ⟨(by
    first
    | (dsimp only [set_A, _NZ] <;>
       repeat' (first | apply ite_IR_of | apply ite_fst_IR_of | rfl))
    | rfl), by decide, Eq.refl true⟩)

theorem op_0E_isSome (step : Nat) (c : w65816_t) (pins : Nat) :
    (op_0E step c pins).isSome = (op_0E step (w65816_init false).1 0).isSome := by
  unfold op_0E
  split <;> first | exact Eq.refl true | exact Eq.refl false

theorem op_0E_live (step : Nat) (c : w65816_t) (pins : Nat) (r : w65816_t × Nat)
    (h : op_0E step c pins = some r) :
    r.1.bcd_enabled = c.bcd_enabled ∧
    (sync_out r.2 = true ∨
      (r.1.IR = c.IR ∧ step + 1 < 8 ∧ (op_0E (step + 1) (w65816_init false).1 0).isSome = true) ∨
      ((r.1.IR = (c.IR + 0) % 65536 ∨ r.1.IR = (c.IR + 1) % 65536) ∧ step + 2 < 8 ∧
        (op_0E (step + 1) (w65816_init false).1 0).isSome = true ∧ (op_0E (step + 2) (w65816_init false).1 0).isSome = true)) := by
  unfold op_0E at h
  split at h
  case h_7 => exact Option.noConfusion h
  all_goals cases h
  all_goals refine ⟨(by
    first
    | (dsimp only [_w65816_asl] <;>
       repeat' (first | apply ite_bcd_of | apply ite_fst_bcd_of | rfl))
    | rfl), ?_⟩
  case h_6 => exact Or.inl (fetch_sync _ _)
  all_goals exact Or.inr (Or.inl ⟨(by
    first
    | (dsimp only [_w65816_asl] <;>
       repeat' (first | apply ite_IR_of | apply ite_fst_IR_of | rfl))
    | rfl), by decide, Eq.refl true⟩)

theorem op_0F_isSome (step : Nat) (c : w65816_t) (pins : Nat) :
    (op_0F step c pins).isSome = (op_0F step (w65816_init false).1 0).isSome := by
  unfold op_0F
  split <;> first | exact Eq.refl true | exact Eq.refl false

theorem op_0F_live (step : Nat) (c : w65816_t) (pins : Nat) (r : w65816_t × Nat)
    (h : op_0F step c pins = some r) :
    r.1.bcd_enabled = c.bcd_enabled ∧
    (sync_out r.2 = true ∨
      (r.1.IR = c.IR ∧ step + 1 < 8 ∧ (op_0F (step + 1) (w65816_init false).1 0).isSome = true) ∨
      ((r.1.IR = (c.IR + 0) % 65536 ∨ r.1.IR = (c.IR + 1) % 65536) ∧ step + 2 < 8 ∧
        (op_0F (step + 1) (w65816_init false).1 0).isSome = true ∧ (op_0F (step + 2) (w65816_init false).1 0).isSome = true)) := by
  unfold op_0F at h
  split at h
  case h_4 => exact Option.noConfusion h
  all_goals cases h
  all_goals refine ⟨(by
    first
    | (dsimp only [set_A, _NZ] <;>
       repeat' (first | apply ite_bcd_of | apply ite_fst_bcd_of | rfl))
    | rfl), ?_⟩
  case h_3 => exact Or.inl (fetch_sync _ _)
  all_goals exact Or.inr (Or.inl ⟨(by
    first
    | (dsimp only [set_A, _NZ] <;>
       repeat' (first | apply ite_IR_of | apply ite_fst_IR_of | rfl))
    | rfl), by decide, Eq.refl true⟩)

theorem op_10_isSome (step : Nat) (c : w65816_t) (pins : Nat) :
    (op_10 step c pins).isSome = (op_10 step (w65816_init false).1 0).isSome := by
  unfold op_10
  split <;> first | exact Eq.refl true | exact Eq.refl false

theorem op_10_live (step : Nat) (c : w65816_t) (pins : Nat) (r : w65816_t × Nat)
    (h : op_10 step c pins = some r) :
    r.1.bcd_enabled = c.bcd_enabled ∧
    (sync_out r.2 = true ∨
      (r.1.IR = c.IR ∧ step + 1 < 8 ∧ (op_10 (step + 1) (w65816_init false).1 0).isSome = true) ∨
      ((r.1.IR = (c.IR + 0) % 65536 ∨ r.1.IR = (c.IR + 1) % 65536) ∧ step + 2 < 8 ∧
        (op_10 (step + 1) (w65816_init false).1 0).isSome = true ∧ (op_10 (step + 2) (w65816_init false).1 0).isSome = true)) := by
  unfold op_10 at h
  split at h
  case h_5 => exact Option.noConfusion h
  all_goals cases h
  all_goals refine ⟨(by
    first
    | (dsimp only [] <;>
       repeat' (first | apply ite_bcd_of | apply ite_fst_bcd_of | rfl))
    | rfl), ?_⟩
  case h_4 => exact Or.inl (fetch_sync _ _)
  all_goals exact Or.inr (Or.inl ⟨(by
    first
    | (dsimp only [] <;>
       repeat' (first | apply ite_IR_of | apply ite_fst_IR_of | rfl))
    | rfl), by decide, Eq.refl true⟩)

theorem op_11_isSome (step : Nat) (c : w65816_t) (pins : Nat) :
    (op_11 step c pins).isSome = (op_11 step (w65816_init false).1 0).isSome := by
  unfold op_11
  split <;> first | exact Eq.refl true | exact Eq.refl false

theorem op_11_live (step : Nat) (c : w65816_t) (pins : Nat) (r : w65816_t × Nat)
    (h : op_11 step c pins = some r) :
    r.1.bcd_enabled = c.bcd_enabled ∧
    (sync_out r.2 = true ∨
      (r.1.IR = c.IR ∧ step + 1 < 8 ∧ (op_11 (step + 1) (w65816_init false).1 0).isSome = true) ∨
      ((r.1.IR = (c.IR + 0) % 65536 ∨ r.1.IR = (c.IR + 1) % 65536) ∧ step + 2 < 8 ∧
        (op_11 (step + 1) (w65816_init false).1 0).isSome = true ∧ (op_11 (step + 2) (w65816_init false).1 0).isSome = true)) := by
  unfold op_11 at h
  split at h
  case h_7 => exact Option.noConfusion h
  all_goals cases h
  all_goals refine ⟨(by
    first
    | (dsimp only [set_A, _NZ] <;>
       repeat' (first | apply ite_bcd_of | apply ite_fst_bcd_of | rfl))
    | rfl), ?_⟩
  case h_4 => exact Or.inr (Or.inr ⟨skip_IR _ _, by decide, Eq.refl true, Eq.refl true⟩)
  case h_6 => exact Or.inl (fetch_sync _ _)
  all_goals exact Or.inr (Or.inl ⟨(by
    first
    | (dsimp only [set_A, _NZ] <;>
       repeat' (first | apply ite_IR_of | apply ite_fst_IR_of | rfl))
    | rfl), by decide, Eq.refl true⟩)

theorem op_12_isSome (step : Nat) (c : w65816_t) (pins : Nat) :
    (op_12 step c pins).isSome = (op_12 step (w65816_init false).1 0).isSome := by
  unfold op_12
  split <;> first | exact Eq.refl true | exact Eq.refl false

theorem op_12_live (step : Nat) (c : w65816_t) (pins : Nat) (r : w65816_t × Nat)
    (h : op_12 step c pins = some r) :
    r.1.bcd_enabled = c.bcd_enabled ∧
    (sync_out r.2 = true ∨
      (r.1.IR = c.IR ∧ step + 1 < 8 ∧ (op_12 (step + 1) (w65816_init false).1 0).isSome = true) ∨
      ((r.1.IR = (c.IR + 0) % 65536 ∨ r.1.IR = (c.IR + 1) % 65536) ∧ step + 2 < 8 ∧
        (op_12 (step + 1) (w65816_init false).1 0).isSome = true ∧ (op_12 (step + 2) (w65816_init false).1 0).isSome = true)) := by
  unfold op_12 at h
  split at h
  case h_4 => exact Option.noConfusion h
  all_goals cases h
  all_goals refine ⟨(by
    first
    | (dsimp only [set_A, _NZ] <;>
       repeat' (first | apply ite_bcd_of | apply ite_fst_bcd_of | rfl))
    | rfl), ?_⟩
  case h_3 => exact Or.inl (fetch_sync _ _)
  all_goals exact Or.inr (Or.inl ⟨(by
    first
    | (dsimp only [set_A, _NZ] <;>
       repeat' (first | apply ite_IR_of | apply ite_fst_IR_of | rfl))
    | rfl), by decide, Eq.refl true⟩)

theorem op_13_isSome (step : Nat) (c : w65816_t) (pins : Nat) :
    (op_13 step c pins).isSome = (op_13 step (w65816_init false).1 0).isSome := by
  unfold op_13
  split <;> first | exact Eq.refl true | exact Eq.refl false

theorem op_13_live (step : Nat) (c : w65816_t) (pins : Nat) (r : w65816_t × Nat)
    (h : op_13 step c pins = some r) :
    r.1.bcd_enabled = c.bcd_enabled ∧
    (sync_out r.2 = true ∨
      (r.1.IR = c.IR ∧ step + 1 < 8 ∧ (op_13 (step + 1) (w65816_init false).1 0).isSome = true) ∨
      ((r.1.IR = (c.IR + 0) % 65536 ∨ r.1.IR = (c.IR + 1) % 65536) ∧ step + 2 < 8 ∧
        (op_13 (step + 1) (w65816_init false).1 0).isSome = true ∧ (op_13 (step + 2) (w65816_init false).1 0).isSome = true)) := by
  unfold op_13 at h
  split at h
  case h_4 => exact Option.noConfusion h
  all_goals cases h
  all_goals refine ⟨(by
    first
    | (dsimp only [set_A, _NZ] <;>
       repeat' (first | apply ite_bcd_of | apply ite_fst_bcd_of | rfl))
    | rfl), ?_⟩
  case h_3 => exact Or.inl (fetch_sync _ _)
  all_goals exact Or.inr (Or.inl ⟨(by
    first
    | (dsimp only [set_A, _NZ] <;>
       repeat' (first | apply ite_IR_of | apply ite_fst_IR_of | rfl))
    | rfl), by decide, Eq.refl true⟩)

theorem op_14_isSome (step : Nat) (c : w65816_t) (pins : Nat) :
    (op_14 step c pins).isSome = (op_14 step (w65816_init false).1 0).isSome := by
  unfold op_14
  split <;> first | exact Eq.refl true | exact Eq.refl false

theorem op_14_live (step : Nat) (c : w65816_t) (pins : Nat) (r : w65816_t × Nat)
    (h : op_14 step c pins = some r) :
    r.1.bcd_enabled = c.bcd_enabled ∧
    (sync_out r.2 = true ∨
      (r.1.IR = c.IR ∧ step + 1 < 8 ∧ (op_14 (step + 1) (w65816_init false).1 0).isSome = true) ∨
      ((r.1.IR = (c.IR + 0) % 65536 ∨ r.1.IR = (c.IR + 1) % 65536) ∧ step + 2 < 8 ∧
        (op_14 (step + 1) (w65816_init false).1 0).isSome = true ∧ (op_14 (step + 2) (w65816_init false).1 0).isSome = true)) := by
  unfold op_14 at h
  split at h
  case h_6 => exact Option.noConfusion h
  all_goals cases h
  all_goals refine ⟨(by
    first
    | (dsimp only [_Z] <;>
       repeat' (first | apply ite_bcd_of | apply ite_fst_bcd_of | rfl))
    | rfl), ?_⟩
  case h_5 => exact Or.inl (fetch_sync _ _)
  all_goals exact Or.inr (Or.inl ⟨(by
    first
    | (dsimp only [_Z] <;>
       repeat' (first | apply ite_IR_of | apply ite_fst_IR_of | rfl))
    | rfl), by decide, Eq.refl true⟩)

theorem op_15_isSome (step : Nat) (c : w65816_t) (pins : Nat) :
    (op_15 step c pins).isSome = (op_15 step (w65816_init false).1 0).isSome := by
  unfold op_15
  split <;> first | exact Eq.refl true | exact Eq.refl false

theorem op_15_live (step : Nat) (c : w65816_t) (pins : Nat) (r : w65816_t × Nat)
    (h : op_15 step c pins = some r) :
    r.1.bcd_enabled = c.bcd_enabled ∧
    (sync_out r.2 = true ∨
      (r.1.IR = c.IR ∧ step + 1 < 8 ∧ (op_15 (step + 1) (w65816_init false).1 0).isSome = true) ∨
      ((r.1.IR = (c.IR + 0) % 65536 ∨ r.1.IR = (c.IR + 1) % 65536) ∧ step + 2 < 8 ∧
        (op_15 (step + 1) (w65816_init false).1 0).isSome = true ∧ (op_15 (step + 2) (w65816_init false).1 0).isSome = true)) := by
  unfold op_15 at h
  split at h
  case h_5 => exact Option.noConfusion h
  all_goals cases h
  all_goals refine ⟨(by
    first
    | (dsimp only [set_A, _NZ] <;>
       repeat' (first | apply ite_bcd_of | apply ite_fst_bcd_of | rfl))
    | rfl), ?_⟩
  case h_4 => exact Or.inl (fetch_sync _ _)
  all_goals exact Or.inr (Or.inl ⟨(by
    first
    | (dsimp only [set_A, _NZ] <;>
       repeat' (first | apply ite_IR_of | apply ite_fst_IR_of | rfl))
    | rfl), by decide, Eq.refl true⟩)

theorem op_16_isSome (step : Nat) (c : w65816_t) (pins : Nat) :
    (op_16 step c pins).isSome = (op_16 step (w65816_init false).1 0).isSome := by
  unfold op_16
  split <;> first | exact Eq.refl true | exact Eq.refl false

theorem op_16_live (step : Nat) (c : w65816_t) (pins : Nat) (r : w65816_t × Nat)
    (h : op_16 step c pins = some r) :
    r.1.bcd_enabled = c.bcd_enabled ∧
    (sync_out r.2 = true ∨
      (r.1.IR = c.IR ∧ step + 1 < 8 ∧ (op_16 (step + 1) (w65816_init false).1 0).isSome = true) ∨
      ((r.1.IR = (c.IR + 0) % 65536 ∨ r.1.IR = (c.IR + 1) % 65536) ∧ step + 2 < 8 ∧
        (op_16 (step + 1) (w65816_init false).1 0).isSome = true ∧ (op_16 (step + 2) (w65816_init false).1 0).isSome = true)) := by
  unfold op_16 at h
  split at h
  case h_7 => exact Option.noConfusion h
  all_goals cases h
  all_goals refine ⟨(by
    first
    | (dsimp only [_w65816_asl] <;>
       repeat' (first | apply ite_bcd_of | apply ite_fst_bcd_of | rfl))
    | rfl), ?_⟩
  case h_6 => exact Or.inl (fetch_sync _ _)
  all_goals exact Or.inr (Or.inl ⟨(by
    first
    | (dsimp only [_w65816_asl] <;>
       repeat' (first | apply ite_IR_of | apply ite_fst_IR_of | rfl))
    | rfl), by decide, Eq.refl true⟩)

theorem op_17_isSome (step : Nat) (c : w65816_t) (pins : Nat) :
    (op_17 step c pins).isSome = (op_17 step (w65816_init false).1 0).isSome := by
  unfold op_17
  split <;> first | exact Eq.refl true | exact Eq.refl false

theorem op_17_live (step : Nat) (c : w65816_t) (pins : Nat) (r : w65816_t × Nat)
    (h : op_17 step c pins = some r) :
    r.1.bcd_enabled = c.bcd_enabled ∧
    (sync_out r.2 = true ∨
      (r.1.IR = c.IR ∧ step + 1 < 8 ∧ (op_17 (step + 1) (w65816_init false).1 0).isSome = true) ∨
      ((r.1.IR = (c.IR + 0) % 65536 ∨ r.1.IR = (c.IR + 1) % 65536) ∧ step + 2 < 8 ∧
        (op_17 (step + 1) (w65816_init false).1 0).isSome = true ∧ (op_17 (step + 2) (w65816_init false).1 0).isSome = true)) := by
  unfold op_17 at h
  split at h
  case h_4 => exact Option.noConfusion h
  all_goals cases h
  all_goals refine ⟨(by
    first
    | (dsimp only [set_A, _NZ] <;>
       repeat' (first | apply ite_bcd_of | apply ite_fst_bcd_of | rfl))
    | rfl), ?_⟩
  case h_3 => exact Or.inl (fetch_sync _ _)
  all_goals exact Or.inr (Or.inl ⟨(by
    first
    | (dsimp only [set_A, _NZ] <;>
       repeat' (first | apply ite_IR_of | apply ite_fst_IR_of | rfl))
    | rfl), by decide, Eq.refl true⟩)

theorem op_18_isSome (step : Nat) (c : w65816_t) (pins : Nat) :
    (op_18 step c pins).isSome = (op_18 step (w65816_init false).1 0).isSome := by
  unfold op_18
  split <;> first | exact Eq.refl true | exact Eq.refl false

theorem op_18_live (step : Nat) (c : w65816_t) (pins : Nat) (r : w65816_t × Nat)
    (h : op_18 step c pins = some r) :
    r.1.bcd_enabled = c.bcd_enabled ∧
    (sync_out r.2 = true ∨
      (r.1.IR = c.IR ∧ step + 1 < 8 ∧ (op_18 (step + 1) (w65816_init false).1 0).isSome = true) ∨
      ((r.1.IR = (c.IR + 0) % 65536 ∨ r.1.IR = (c.IR + 1) % 65536) ∧ step + 2 < 8 ∧
        (op_18 (step + 1) (w65816_init false).1 0).isSome = true ∧ (op_18 (step + 2) (w65816_init false).1 0).isSome = true)) := by
  unfold op_18 at h
  split at h
  case h_3 => exact Option.noConfusion h
  all_goals cases h
  all_goals refine ⟨(by
    first
    | (dsimp only [] <;>
       repeat' (first | apply ite_bcd_of | apply ite_fst_bcd_of | rfl))
    | rfl), ?_⟩
  case h_2 => exact Or.inl (fetch_sync _ _)
  all_goals exact Or.inr (Or.inl ⟨(by
    first
    | (dsimp only [] <;>
       repeat' (first | apply ite_IR_of | apply ite_fst_IR_of | rfl))
    | rfl), by decide, Eq.refl true⟩)

theorem op_19_isSome (step : Nat) (c : w65816_t) (pins : Nat) :
    (op_19 step c pins).isSome = (op_19 step (w65816_init false).1 0).isSome := by
  unfold op_19
  split <;> first | exact Eq.refl true | exact Eq.refl false

theorem op_19_live (step : Nat) (c : w65816_t) (pins : Nat) (r : w65816_t × Nat)
    (h : op_19 step c pins = some r) :
    r.1.bcd_enabled = c.bcd_enabled ∧
    (sync_out r.2 = true ∨
      (r.1.IR = c.IR ∧ step + 1 < 8 ∧ (op_19 (step + 1) (w65816_init false).1 0).isSome = true) ∨
      ((r.1.IR = (c.IR + 0) % 65536 ∨ r.1.IR = (c.IR + 1) % 65536) ∧ step + 2 < 8 ∧
        (op_19 (step + 1) (w65816_init false).1 0).isSome = true ∧ (op_19 (step + 2) (w65816_init false).1 0).isSome = true)) := by
  unfold op_19 at h
  split at h
  case h_6 => exact Option.noConfusion h
  all_goals cases h
  all_goals refine ⟨(by
    first
    | (dsimp only [set_A, _NZ] <;>
       repeat' (first | apply ite_bcd_of | apply ite_fst_bcd_of | rfl))
    | rfl), ?_⟩
  case h_3 => exact Or.inr (Or.inr ⟨skip_IR _ _, by decide, Eq.refl true, Eq.refl true⟩)
  case h_5 => exact Or.inl (fetch_sync _ _)
  all_goals exact Or.inr (Or.inl ⟨(by
    first
    | (dsimp only [set_A, _NZ] <;>
       repeat' (first | apply ite_IR_of | apply ite_fst_IR_of | rfl))
    | rfl), by decide, Eq.refl true⟩)

theorem op_1A_isSome (step : Nat) (c : w65816_t) (pins : Nat) :
    (op_1A step c pins).isSome = (op_1A step (w65816_init false).1 0).isSome := by
  unfold op_1A
  split <;> first | exact Eq.refl true | exact Eq.refl false

theorem op_1A_live (step : Nat) (c : w65816_t) (pins : Nat) (r : w65816_t × Nat)
    (h : op_1A step c pins = some r) :
    r.1.bcd_enabled = c.bcd_enabled ∧
    (sync_out r.2 = true ∨
      (r.1.IR = c.IR ∧ step + 1 < 8 ∧ (op_1A (step + 1) (w65816_init false).1 0).isSome = true) ∨
      ((r.1.IR = (c.IR + 0) % 65536 ∨ r.1.IR = (c.IR + 1) % 65536) ∧ step + 2 < 8 ∧
        (op_1A (step + 1) (w65816_init false).1 0).isSome = true ∧ (op_1A (step + 2) (w65816_init false).1 0).isSome = true)) := by
  unfold op_1A at h
  split at h
  case h_3 => exact Option.noConfusion h
  all_goals cases h
  all_goals refine ⟨(by
    first
    | (dsimp only [set_A, _NZ] <;>
       repeat' (first | apply ite_bcd_of | apply ite_fst_bcd_of | rfl))
    | rfl), ?_⟩
  case h_2 => exact Or.inl (fetch_sync _ _)
  all_goals exact Or.inr (Or.inl ⟨(by
    first
    | (dsimp only [set_A, _NZ] <;>
       repeat' (first | apply ite_IR_of | apply ite_fst_IR_of | rfl))
    | rfl), by decide, Eq.refl true⟩)

theorem op_1B_isSome (step : Nat) (c : w65816_t) (pins : Nat) :
    (op_1B step c pins).isSome = (op_1B step (w65816_init false).1 0).isSome := by
  unfold op_1B
  split <;> first | exact Eq.refl true | exact Eq.refl false

theorem op_1B_live (step : Nat) (c : w65816_t) (pins : Nat) (r : w65816_t × Nat)
    (h : op_1B step c pins = some r) :
    r.1.bcd_enabled = c.bcd_enabled ∧
    (sync_out r.2 = true ∨
      (r.1.IR = c.IR ∧ step + 1 < 8 ∧ (op_1B (step + 1) (w65816_init false).1 0).isSome = true) ∨
      ((r.1.IR = (c.IR + 0) % 65536 ∨ r.1.IR = (c.IR + 1) % 65536) ∧ step + 2 < 8 ∧
        (op_1B (step + 1) (w65816_init false).1 0).isSome = true ∧ (op_1B (step + 2) (w65816_init false).1 0).isSome = true)) := by
  unfold op_1B at h
  split at h
  case h_3 => exact Option.noConfusion h
  all_goals cases h
  all_goals refine ⟨(by
    first
    | (dsimp only [] <;>
       repeat' (first | apply ite_bcd_of | apply ite_fst_bcd_of | rfl))
    | rfl), ?_⟩
  case h_2 => exact Or.inl (fetch_sync _ _)
  all_goals exact Or.inr (Or.inl ⟨(by
    first
    | (dsimp only [] <;>
       repeat' (first | apply ite_IR_of | apply ite_fst_IR_of | rfl))
    | rfl), by decide, Eq.refl true⟩)

theorem op_1C_isSome (step : Nat) (c : w65816_t) (pins : Nat) :
    (op_1C step c pins).isSome = (op_1C step (w65816_init false).1 0).isSome := by
  unfold op_1C
  split <;> first | exact Eq.refl true | exact Eq.refl false

theorem op_1C_live (step : Nat) (c : w65816_t) (pins : Nat) (r : w65816_t × Nat)
    (h : op_1C step c pins = some r) :
    r.1.bcd_enabled = c.bcd_enabled ∧
    (sync_out r.2 = true ∨
      (r.1.IR = c.IR ∧ step + 1 < 8 ∧ (op_1C (step + 1) (w65816_init false).1 0).isSome = true) ∨
      ((r.1.IR = (c.IR + 0) % 65536 ∨ r.1.IR = (c.IR + 1) % 65536) ∧ step + 2 < 8 ∧
        (op_1C (step + 1) (w65816_init false).1 0).isSome = true ∧ (op_1C (step + 2) (w65816_init false).1 0).isSome = true)) := by
  unfold op_1C at h
  split at h
  case h_7 => exact Option.noConfusion h
  all_goals cases h
  all_goals refine ⟨(by
    first
    | (dsimp only [_Z] <;>
       repeat' (first | apply ite_bcd_of | apply ite_fst_bcd_of | rfl))
    | rfl), ?_⟩
  case h_6 => exact Or.inl (fetch_sync _ _)
  all_goals exact Or.inr (Or.inl ⟨(by
    first
    | (dsimp only [_Z] <;>
       repeat' (first | apply ite_IR_of | apply ite_fst_IR_of | rfl))
    | rfl), by decide, Eq.refl true⟩)

theorem op_1D_isSome (step : Nat) (c : w65816_t) (pins : Nat) :
    (op_1D step c pins).isSome = (op_1D step (w65816_init false).1 0).isSome := by
  unfold op_1D
  split <;> first | exact Eq.refl true | exact Eq.refl false

theorem op_1D_live (step : Nat) (c : w65816_t) (pins : Nat) (r : w65816_t × Nat)
    (h : op_1D step c pins = some r) :
    r.1.bcd_enabled = c.bcd_enabled ∧
    (sync_out r.2 = true ∨
      (r.1.IR = c.IR ∧ step + 1 < 8 ∧ (op_1D (step + 1) (w65816_init false).1 0).isSome = true) ∨
      ((r.1.IR = (c.IR + 0) % 65536 ∨ r.1.IR = (c.IR + 1) % 65536) ∧ step + 2 < 8 ∧
        (op_1D (step + 1) (w65816_init false).1 0).isSome = true ∧ (op_1D (step + 2) (w65816_init false).1 0).isSome = true)) := by
  unfold op_1D at h
  split at h
  case h_6 => exact Option.noConfusion h
  all_goals cases h
  all_goals refine ⟨(by
    first
    | (dsimp only [set_A, _NZ] <;>
       repeat' (first | apply ite_bcd_of | apply ite_fst_bcd_of | rfl))
    | rfl), ?_⟩
  case h_3 => exact Or.inr (Or.inr ⟨skip_IR _ _, by decide, Eq.refl true, Eq.refl true⟩)
  case h_5 => exact Or.inl (fetch_sync _ _)
  all_goals exact Or.inr (Or.inl ⟨(by
    first
    | (dsimp only [set_A, _NZ] <;>
       repeat' (first | apply ite_IR_of | apply ite_fst_IR_of | rfl))
    | rfl), by decide, Eq.refl true⟩)

theorem op_1E_isSome (step : Nat) (c : w65816_t) (pins : Nat) :
    (op_1E step c pins).isSome = (op_1E step (w65816_init false).1 0).isSome := by
  unfold op_1E
  split <;> first | exact Eq.refl true | exact Eq.refl false

theorem op_1E_live (step : Nat) (c : w65816_t) (pins : Nat) (r : w65816_t × Nat)
    (h : op_1E step c pins = some r) :
    r.1.bcd_enabled = c.bcd_enabled ∧
    (sync_out r.2 = true ∨
      (r.1.IR = c.IR ∧ step + 1 < 8 ∧ (op_1E (step + 1) (w65816_init false).1 0).isSome = true) ∨
      ((r.1.IR = (c.IR + 0) % 65536 ∨ r.1.IR = (c.IR + 1) % 65536) ∧ step + 2 < 8 ∧
        (op_1E (step + 1) (w65816_init false).1 0).isSome = true ∧ (op_1E (step + 2) (w65816_init false).1 0).isSome = true)) := by
  unfold op_1E at h
  split at h
  case h_8 => exact Option.noConfusion h
  all_goals cases h
  all_goals refine ⟨(by
    first
    | (dsimp only [_w65816_asl] <;>
       repeat' (first | apply ite_bcd_of | apply ite_fst_bcd_of | rfl))
    | rfl), ?_⟩
  case h_7 => exact Or.inl (fetch_sync _ _)
  all_goals exact Or.inr (Or.inl ⟨(by
    first
    | (dsimp only [_w65816_asl] <;>
       repeat' (first | apply ite_IR_of | apply ite_fst_IR_of | rfl))
    | rfl), by decide, Eq.refl true⟩)

theorem op_1F_isSome (step : Nat) (c : w65816_t) (pins : Nat) :
    (op_1F step c pins).isSome = (op_1F step (w65816_init false).1 0).isSome := by
  unfold op_1F
  split <;> first | exact Eq.refl true | exact Eq.refl false

theorem op_1F_live (step : Nat) (c : w65816_t) (pins : Nat) (r : w65816_t × Nat)
    (h : op_1F step c pins = some r) :
    r.1.bcd_enabled = c.bcd_enabled ∧
    (sync_out r.2 = true ∨
      (r.1.IR = c.IR ∧ step + 1 < 8 ∧ (op_1F (step + 1) (w65816_init false).1 0).isSome = true) ∨
      ((r.1.IR = (c.IR + 0) % 65536 ∨ r.1.IR = (c.IR + 1) % 65536) ∧ step + 2 < 8 ∧
        (op_1F (step + 1) (w65816_init false).1 0).isSome = true ∧ (op_1F (step + 2) (w65816_init false).1 0).isSome = true)) := by
  unfold op_1F at h
  split at h
  case h_4 => exact Option.noConfusion h
  all_goals cases h
  all_goals refine ⟨(by
    first
    | (dsimp only [set_A, _NZ] <;>
       repeat' (first | apply ite_bcd_of | apply ite_fst_bcd_of | rfl))
    | rfl), ?_⟩
  case h_3 => exact Or.inl (fetch_sync _ _)
  all_goals exact Or.inr (Or.inl ⟨(by
    first
    | (dsimp only [set_A, _NZ] <;>
       repeat' (first | apply ite_IR_of | apply ite_fst_IR_of | rfl))
    | rfl), by decide, Eq.refl true⟩)

theorem op_20_isSome (step : Nat) (c : w65816_t) (pins : Nat) :
    (op_20 step c pins).isSome = (op_20 step (w65816_init false).1 0).isSome := by
  unfold op_20
  split <;> first | exact Eq.refl true | exact Eq.refl false

theorem op_20_live (step : Nat) (c : w65816_t) (pins : Nat) (r : w65816_t × Nat)
    (h : op_20 step c pins = some r) :
    r.1.bcd_enabled = c.bcd_enabled ∧
    (sync_out r.2 = true ∨
      (r.1.IR = c.IR ∧ step + 1 < 8 ∧ (op_20 (step + 1) (w65816_init false).1 0).isSome = true) ∨
      ((r.1.IR = (c.IR + 0) % 65536 ∨ r.1.IR = (c.IR + 1) % 65536) ∧ step + 2 < 8 ∧
        (op_20 (step + 1) (w65816_init false).1 0).isSome = true ∧ (op_20 (step + 2) (w65816_init false).1 0).isSome = true)) := by
  unfold op_20 at h
  split at h
  case h_7 => exact Option.noConfusion h
  all_goals cases h
  all_goals refine ⟨(by
    first
    | (dsimp only [set_S] <;>
       repeat' (first | apply ite_bcd_of | apply ite_fst_bcd_of | rfl))
    | rfl), ?_⟩
  case h_6 => exact Or.inl (fetch_sync _ _)
  all_goals exact Or.inr (Or.inl ⟨(by
    first
    | (dsimp only [set_S] <;>
       repeat' (first | apply ite_IR_of | apply ite_fst_IR_of | rfl))
    | rfl), by decide, Eq.refl true⟩)

theorem op_21_isSome (step : Nat) (c : w65816_t) (pins : Nat) :
    (op_21 step c pins).isSome = (op_21 step (w65816_init false).1 0).isSome := by
  unfold op_21
  split <;> first | exact Eq.refl true | exact Eq.refl false

theorem op_21_live (step : Nat) (c : w65816_t) (pins : Nat) (r : w65816_t × Nat)
    (h : op_21 step c pins = some r) :
    r.1.bcd_enabled = c.bcd_enabled ∧
    (sync_out r.2 = true ∨
      (r.1.IR = c.IR ∧ step + 1 < 8 ∧ (op_21 (step + 1) (w65816_init false).1 0).isSome = true) ∨
      ((r.1.IR = (c.IR + 0) % 65536 ∨ r.1.IR = (c.IR + 1) % 65536) ∧ step + 2 < 8 ∧
        (op_21 (step + 1) (w65816_init false).1 0).isSome = true ∧ (op_21 (step + 2) (w65816_init false).1 0).isSome = true)) := by
  unfold op_21 at h
  split at h
  case h_7 => exact Option.noConfusion h
  all_goals cases h
  all_goals refine ⟨(by
    first
    | (dsimp only [set_A, _NZ] <;>
       repeat' (first | apply ite_bcd_of | apply ite_fst_bcd_of | rfl))
    | rfl), ?_⟩
  case h_6 => exact Or.inl (fetch_sync _ _)
  all_goals exact Or.inr (Or.inl ⟨(by
    first
    | (dsimp only [set_A, _NZ] <;>
       repeat' (first | apply ite_IR_of | apply ite_fst_IR_of | rfl))
    | rfl), by decide, Eq.refl true⟩)

theorem op_22_isSome (step : Nat) (c : w65816_t) (pins : Nat) :
    (op_22 step c pins).isSome = (op_22 step (w65816_init false).1 0).isSome := by
  unfold op_22
  split <;> first | exact Eq.refl true | exact Eq.refl false

theorem op_22_live (step : Nat) (c : w65816_t) (pins : Nat) (r : w65816_t × Nat)
    (h : op_22 step c pins = some r) :
    r.1.bcd_enabled = c.bcd_enabled ∧
    (sync_out r.2 = true ∨
      (r.1.IR = c.IR ∧ step + 1 < 8 ∧ (op_22 (step + 1) (w65816_init false).1 0).isSome = true) ∨
      ((r.1.IR = (c.IR + 0) % 65536 ∨ r.1.IR = (c.IR + 1) % 65536) ∧ step + 2 < 8 ∧
        (op_22 (step + 1) (w65816_init false).1 0).isSome = true ∧ (op_22 (step + 2) (w65816_init false).1 0).isSome = true)) := by
  unfold op_22 at h
  split at h
  case h_4 => exact Option.noConfusion h
  all_goals cases h
  all_goals refine ⟨(by
    first
    | (dsimp only [] <;>
       repeat' (first | apply ite_bcd_of | apply ite_fst_bcd_of | rfl))
    | rfl), ?_⟩
  case h_3 => exact Or.inl (fetch_sync _ _)
  all_goals exact Or.inr (Or.inl ⟨(by
    first
    | (dsimp only [] <;>
       repeat' (first | apply ite_IR_of | apply ite_fst_IR_of | rfl))
    | rfl), by decide, Eq.refl true⟩)

theorem op_23_isSome (step : Nat) (c : w65816_t) (pins : Nat) :
    (op_23 step c pins).isSome = (op_23 step (w65816_init false).1 0).isSome := by
  unfold op_23
  split <;> first | exact Eq.refl true | exact Eq.refl false

theorem op_23_live (step : Nat) (c : w65816_t) (pins : Nat) (r : w65816_t × Nat)
    (h : op_23 step c pins = some r) :
    r.1.bcd_enabled = c.bcd_enabled ∧
    (sync_out r.2 = true ∨
      (r.1.IR = c.IR ∧ step + 1 < 8 ∧ (op_23 (step + 1) (w65816_init false).1 0).isSome = true) ∨
      ((r.1.IR = (c.IR + 0) % 65536 ∨ r.1.IR = (c.IR + 1) % 65536) ∧ step + 2 < 8 ∧
        (op_23 (step + 1) (w65816_init false).1 0).isSome = true ∧ (op_23 (step + 2) (w65816_init false).1 0).isSome = true)) := by
  unfold op_23 at h
  split at h
  case h_4 => exact Option.noConfusion h
  all_goals cases h
  all_goals refine ⟨(by
    first
    | (dsimp only [set_A, _NZ] <;>
       repeat' (first | apply ite_bcd_of | apply ite_fst_bcd_of | rfl))
    | rfl), ?_⟩
  case h_3 => exact Or.inl (fetch_sync _ _)
  all_goals exact Or.inr (Or.inl ⟨(by
    first
    | (dsimp only [set_A, _NZ] <;>
       repeat' (first | apply ite_IR_of | apply ite_fst_IR_of | rfl))
    | rfl), by decide, Eq.refl true⟩)

theorem op_24_isSome (step : Nat) (c : w65816_t) (pins : Nat) :
    (op_24 step c pins).isSome = (op_24 step (w65816_init false).1 0).isSome := by
  unfold op_24
  split <;> first | exact Eq.refl true | exact Eq.refl false

theorem op_24_live (step : Nat) (c : w65816_t) (pins : Nat) (r : w65816_t × Nat)
    (h : op_24 step c pins = some r) :
    r.1.bcd_enabled = c.bcd_enabled ∧
    (sync_out r.2 = true ∨
      (r.1.IR = c.IR ∧ step + 1 < 8 ∧ (op_24 (step + 1) (w65816_init false).1 0).isSome = true) ∨
      ((r.1.IR = (c.IR + 0) % 65536 ∨ r.1.IR = (c.IR + 1) % 65536) ∧ step + 2 < 8 ∧
        (op_24 (step + 1) (w65816_init false).1 0).isSome = true ∧ (op_24 (step + 2) (w65816_init false).1 0).isSome = true)) := by
  unfold op_24 at h
  split at h
  case h_4 => exact Option.noConfusion h
  all_goals cases h
  all_goals refine ⟨(by
    first
    | (dsimp only [] <;>
       repeat' (first | apply ite_bcd_of | apply ite_fst_bcd_of | apply bit_bcd_of | rfl))
    | rfl), ?_⟩
  case h_3 => exact Or.inl (fetch_sync _ _)
  all_goals exact Or.inr (Or.inl ⟨(by
    first
    | (dsimp only [] <;>
       repeat' (first | apply ite_IR_of | apply ite_fst_IR_of | apply bit_IR_of | rfl))
    | rfl), by decide, Eq.refl true⟩)

theorem op_25_isSome (step : Nat) (c : w65816_t) (pins : Nat) :
    (op_25 step c pins).isSome = (op_25 step (w65816_init false).1 0).isSome := by
  unfold op_25
  split <;> first | exact Eq.refl true | exact Eq.refl false

theorem op_25_live (step : Nat) (c : w65816_t) (pins : Nat) (r : w65816_t × Nat)
    (h : op_25 step c pins = some r) :
    r.1.bcd_enabled = c.bcd_enabled ∧
    (sync_out r.2 = true ∨
      (r.1.IR = c.IR ∧ step + 1 < 8 ∧ (op_25 (step + 1) (w65816_init false).1 0).isSome = true) ∨
      ((r.1.IR = (c.IR + 0) % 65536 ∨ r.1.IR = (c.IR + 1) % 65536) ∧ step + 2 < 8 ∧
        (op_25 (step + 1) (w65816_init false).1 0).isSome = true ∧ (op_25 (step + 2) (w65816_init false).1 0).isSome = true)) := by
  unfold op_25 at h
  split at h
  case h_4 => exact Option.noConfusion h
  all_goals cases h
  all_goals refine ⟨(by
    first
    | (dsimp only [set_A, _NZ] <;>
       repeat' (first | apply ite_bcd_of | apply ite_fst_bcd_of | rfl))
    | rfl), ?_⟩
  case h_3 => exact Or.inl (fetch_sync _ _)
  all_goals exact Or.inr (Or.inl ⟨(by
    first
    | (dsimp only [set_A, _NZ] <;>
       repeat' (first | apply ite_IR_of | apply ite_fst_IR_of | rfl))
    | rfl), by decide, Eq.refl true⟩)

theorem op_26_isSome (step : Nat) (c : w65816_t) (pins : Nat) :
    (op_26 step c pins).isSome = (op_26 step (w65816_init false).1 0).isSome := by
  unfold op_26
  split <;> first | exact Eq.refl true | exact Eq.refl false

theorem op_26_live (step : Nat) (c : w65816_t) (pins : Nat) (r : w65816_t × Nat)
    (h : op_26 step c pins = some r) :
    r.1.bcd_enabled = c.bcd_enabled ∧
    (sync_out r.2 = true ∨
      (r.1.IR = c.IR ∧ step + 1 < 8 ∧ (op_26 (step + 1) (w65816_init false).1 0).isSome = true) ∨
      ((r.1.IR = (c.IR + 0) % 65536 ∨ r.1.IR = (c.IR + 1) % 65536) ∧ step + 2 < 8 ∧
        (op_26 (step + 1) (w65816_init false).1 0).isSome = true ∧ (op_26 (step + 2) (w65816_init false).1 0).isSome = true)) := by
  unfold op_26 at h
  split at h
  case h_6 => exact Option.noConfusion h
  all_goals cases h
  all_goals refine ⟨(by
    first
    | (dsimp only [] <;>
       repeat' (first | apply ite_bcd_of | apply ite_fst_bcd_of | apply rol_bcd_of | rfl))
    | rfl), ?_⟩
  case h_5 => exact Or.inl (fetch_sync _ _)
  all_goals exact Or.inr (Or.inl ⟨(by
    first
    | (dsimp only [] <;>
       repeat' (first | apply ite_IR_of | apply ite_fst_IR_of | apply rol_IR_of | rfl))
    | rfl), by decide, Eq.refl true⟩)

theorem op_27_isSome (step : Nat) (c : w65816_t) (pins : Nat) :
    (op_27 step c pins).isSome = (op_27 step (w65816_init false).1 0).isSome := by
  unfold op_27
  split <;> first | exact Eq.refl true | exact Eq.refl false

theorem op_27_live (step : Nat) (c : w65816_t) (pins : Nat) (r : w65816_t × Nat)
    (h : op_27 step c pins = some r) :
    r.1.bcd_enabled = c.bcd_enabled ∧
    (sync_out r.2 = true ∨
      (r.1.IR = c.IR ∧ step + 1 < 8 ∧ (op_27 (step + 1) (w65816_init false).1 0).isSome = true) ∨
      ((r.1.IR = (c.IR + 0) % 65536 ∨ r.1.IR = (c.IR + 1) % 65536) ∧ step + 2 < 8 ∧
        (op_27 (step + 1) (w65816_init false).1 0).isSome = true ∧ (op_27 (step + 2) (w65816_init false).1 0).isSome = true)) := by
  unfold op_27 at h
  split at h
  case h_4 => exact Option.noConfusion h
  all_goals cases h
  all_goals refine ⟨(by
    first
    | (dsimp only [set_A, _NZ] <;>
       repeat' (first | apply ite_bcd_of | apply ite_fst_bcd_of | rfl))
    | rfl), ?_⟩
  case h_3 => exact Or.inl (fetch_sync _ _)
  all_goals exact Or.inr (Or.inl ⟨(by
    first
    | (dsimp only [set_A, _NZ] <;>
       repeat' (first | apply ite_IR_of | apply ite_fst_IR_of | rfl))
    | rfl), by decide, Eq.refl true⟩)

theorem op_28_isSome (step : Nat) (c : w65816_t) (pins : Nat) :
    (op_28 step c pins).isSome = (op_28 step (w65816_init false).1 0).isSome := by
  unfold op_28
  split <;> first | exact Eq.refl true | exact Eq.refl false

theorem op_28_live (step : Nat) (c : w65816_t) (pins : Nat) (r : w65816_t × Nat)
    (h : op_28 step c pins = some r) :
    r.1.bcd_enabled = c.bcd_enabled ∧
    (sync_out r.2 = true ∨
      (r.1.IR = c.IR ∧ step + 1 < 8 ∧ (op_28 (step + 1) (w65816_init false).1 0).isSome = true) ∨
      ((r.1.IR = (c.IR + 0) % 65536 ∨ r.1.IR = (c.IR + 1) % 65536) ∧ step + 2 < 8 ∧
        (op_28 (step + 1) (w65816_init false).1 0).isSome = true ∧ (op_28 (step + 2) (w65816_init false).1 0).isSome = true)) := by
  unfold op_28 at h
  split at h
  case h_5 => exact Option.noConfusion h
  all_goals cases h
  all_goals refine ⟨(by
    first
    | (dsimp only [set_S] <;>
       repeat' (first | apply ite_bcd_of | apply ite_fst_bcd_of | rfl))
    | rfl), ?_⟩
  case h_4 => exact Or.inl (fetch_sync _ _)
  all_goals exact Or.inr (Or.inl ⟨(by
    first
    | (dsimp only [set_S] <;>
       repeat' (first | apply ite_IR_of | apply ite_fst_IR_of | rfl))
    | rfl), by decide, Eq.refl true⟩)

theorem op_29_isSome (step : Nat) (c : w65816_t) (pins : Nat) :
    (op_29 step c pins).isSome = (op_29 step (w65816_init false).1 0).isSome := by
  unfold op_29
  split <;> first | exact Eq.refl true | exact Eq.refl false

theorem op_29_live (step : Nat) (c : w65816_t) (pins : Nat) (r : w65816_t × Nat)
    (h : op_29 step c pins = some r) :
    r.1.bcd_enabled = c.bcd_enabled ∧
    (sync_out r.2 = true ∨
      (r.1.IR = c.IR ∧ step + 1 < 8 ∧ (op_29 (step + 1) (w65816_init false).1 0).isSome = true) ∨
      ((r.1.IR = (c.IR + 0) % 65536 ∨ r.1.IR = (c.IR + 1) % 65536) ∧ step + 2 < 8 ∧
        (op_29 (step + 1) (w65816_init false).1 0).isSome = true ∧ (op_29 (step + 2) (w65816_init false).1 0).isSome = true)) := by
  unfold op_29 at h
  split at h
  case h_3 => exact Option.noConfusion h
  all_goals cases h
  all_goals refine ⟨(by
    first
    | (dsimp only [set_A, _NZ] <;>
       repeat' (first | apply ite_bcd_of | apply ite_fst_bcd_of | rfl))
    | rfl), ?_⟩
  case h_2 => exact Or.inl (fetch_sync _ _)
  all_goals exact Or.inr (Or.inl ⟨(by
    first
    | (dsimp only [set_A, _NZ] <;>
       repeat' (first | apply ite_IR_of | apply ite_fst_IR_of | rfl))
    | rfl), by decide, Eq.refl true⟩)

theorem op_2A_isSome (step : Nat) (c : w65816_t) (pins : Nat) :
    (op_2A step c pins).isSome = (op_2A step (w65816_init false).1 0).isSome := by
  unfold op_2A
  split <;> first | exact Eq.refl true | exact Eq.refl false

theorem op_2A_live (step : Nat) (c : w65816_t) (pins : Nat) (r : w65816_t × Nat)
    (h : op_2A step c pins = some r) :
    r.1.bcd_enabled = c.bcd_enabled ∧
    (sync_out r.2 = true ∨
      (r.1.IR = c.IR ∧ step + 1 < 8 ∧ (op_2A (step + 1) (w65816_init false).1 0).isSome = true) ∨
      ((r.1.IR = (c.IR + 0) % 65536 ∨ r.1.IR = (c.IR + 1) % 65536) ∧ step + 2 < 8 ∧
        (op_2A (step + 1) (w65816_init false).1 0).isSome = true ∧ (op_2A (step + 2) (w65816_init false).1 0).isSome = true)) := by
  unfold op_2A at h
  split at h
  case h_3 => exact Option.noConfusion h
  all_goals cases h
  all_goals refine ⟨(by
    first
    | (dsimp only [set_A] <;>
       repeat' (first | apply ite_bcd_of | apply ite_fst_bcd_of | apply rol_bcd_of | rfl))
    | rfl), ?_⟩
  case h_2 => exact Or.inl (fetch_sync _ _)
  all_goals exact Or.inr (Or.inl ⟨(by
    first
    | (dsimp only [set_A] <;>
       repeat' (first | apply ite_IR_of | apply ite_fst_IR_of | apply rol_IR_of | rfl))
    | rfl), by decide, Eq.refl true⟩)

theorem op_2B_isSome (step : Nat) (c : w65816_t) (pins : Nat) :
    (op_2B step c pins).isSome = (op_2B step (w65816_init false).1 0).isSome := by
  unfold op_2B
  split <;> first | exact Eq.refl true | exact Eq.refl false

theorem op_2B_live (step : Nat) (c : w65816_t) (pins : Nat) (r : w65816_t × Nat)
    (h : op_2B step c pins = some r) :
    r.1.bcd_enabled = c.bcd_enabled ∧
    (sync_out r.2 = true ∨
      (r.1.IR = c.IR ∧ step + 1 < 8 ∧ (op_2B (step + 1) (w65816_init false).1 0).isSome = true) ∨
      ((r.1.IR = (c.IR + 0) % 65536 ∨ r.1.IR = (c.IR + 1) % 65536) ∧ step + 2 < 8 ∧
        (op_2B (step + 1) (w65816_init false).1 0).isSome = true ∧ (op_2B (step + 2) (w65816_init false).1 0).isSome = true)) := by
  unfold op_2B at h
  split at h
  case h_6 => exact Option.noConfusion h
  all_goals cases h
  all_goals refine ⟨(by
    first
    | (dsimp only [set_S] <;>
       repeat' (first | apply ite_bcd_of | apply ite_fst_bcd_of | rfl))
    | rfl), ?_⟩
  case h_5 => exact Or.inl (fetch_sync _ _)
  all_goals exact Or.inr (Or.inl ⟨(by
    first
    | (dsimp only [set_S] <;>
       repeat' (first | apply ite_IR_of | apply ite_fst_IR_of | rfl))
    | rfl), by decide, Eq.refl true⟩)

theorem op_2C_isSome (step : Nat) (c : w65816_t) (pins : Nat) :
    (op_2C step c pins).isSome = (op_2C step (w65816_init false).1 0).isSome := by
  unfold op_2C
  split <;> first | exact Eq.refl true | exact Eq.refl false

theorem op_2C_live (step : Nat) (c : w65816_t) (pins : Nat) (r : w65816_t × Nat)
    (h : op_2C step c pins = some r) :
    r.1.bcd_enabled = c.bcd_enabled ∧
    (sync_out r.2 = true ∨
      (r.1.IR = c.IR ∧ step + 1 < 8 ∧ (op_2C (step + 1) (w65816_init false).1 0).isSome = true) ∨
      ((r.1.IR = (c.IR + 0) % 65536 ∨ r.1.IR = (c.IR + 1) % 65536) ∧ step + 2 < 8 ∧
        (op_2C (step + 1) (w65816_init false).1 0).isSome = true ∧ (op_2C (step + 2) (w65816_init false).1 0).isSome = true)) := by
  unfold op_2C at h
  split at h
  case h_5 => exact Option.noConfusion h
  all_goals cases h
  all_goals refine ⟨(by
    first
    | (dsimp only [] <;>
       repeat' (first | apply ite_bcd_of | apply ite_fst_bcd_of | apply bit_bcd_of | rfl))
    | rfl), ?_⟩
  case h_4 => exact Or.inl (fetch_sync _ _)
  all_goals exact Or.inr (Or.inl ⟨(by
    first
    | (dsimp only [] <;>
       repeat' (first | apply ite_IR_of | apply ite_fst_IR_of | apply bit_IR_of | rfl))
    | rfl), by decide, Eq.refl true⟩)

theorem op_2D_isSome (step : Nat) (c : w65816_t) (pins : Nat) :
    (op_2D step c pins).isSome = (op_2D step (w65816_init false).1 0).isSome := by
  unfold op_2D
  split <;> first | exact Eq.refl true | exact Eq.refl false

theorem op_2D_live (step : Nat) (c : w65816_t) (pins : Nat) (r : w65816_t × Nat)
    (h : op_2D step c pins = some r) :
    r.1.bcd_enabled = c.bcd_enabled ∧
    (sync_out r.2 = true ∨
      (r.1.IR = c.IR ∧ step + 1 < 8 ∧ (op_2D (step + 1) (w65816_init false).1 0).isSome = true) ∨
      ((r.1.IR = (c.IR + 0) % 65536 ∨ r.1.IR = (c.IR + 1) % 65536) ∧ step + 2 < 8 ∧
        (op_2D (step + 1) (w65816_init false).1 0).isSome = true ∧ (op_2D (step + 2) (w65816_init false).1 0).isSome = true)) := by
  unfold op_2D at h
  split at h
  case h_5 => exact Option.noConfusion h
  all_goals cases h
  all_goals refine ⟨(by
    first
    | (dsimp only [set_A, _NZ] <;>
       repeat' (first | apply ite_bcd_of | apply ite_fst_bcd_of | rfl))
    | rfl), ?_⟩
  case h_4 => exact Or.inl (fetch_sync _ _)
  all_goals exact Or.inr (Or.inl ⟨(by
    first
    | (dsimp only [set_A, _NZ] <;>
       repeat' (first | apply ite_IR_of | apply ite_fst_IR_of | rfl))
    | rfl), by decide, Eq.refl true⟩)

theorem op_2E_isSome (step : Nat) (c : w65816_t) (pins : Nat) :
    (op_2E step c pins).isSome = (op_2E step (w65816_init false).1 0).isSome := by
  unfold op_2E
  split <;> first | exact Eq.refl true | exact Eq.refl false

theorem op_2E_live (step : Nat) (c : w65816_t) (pins : Nat) (r : w65816_t × Nat)
    (h : op_2E step c pins = some r) :
    r.1.bcd_enabled = c.bcd_enabled ∧
    (sync_out r.2 = true ∨
      (r.1.IR = c.IR ∧ step + 1 < 8 ∧ (op_2E (step + 1) (w65816_init false).1 0).isSome = true) ∨
      ((r.1.IR = (c.IR + 0) % 65536 ∨ r.1.IR = (c.IR + 1) % 65536) ∧ step + 2 < 8 ∧
        (op_2E (step + 1) (w65816_init false).1 0).isSome = true ∧ (op_2E (step + 2) (w65816_init false).1 0).isSome = true)) := by
  unfold op_2E at h
  split at h
  case h_7 => exact Option.noConfusion h
  all_goals cases h
  all_goals refine ⟨(by
    first
    | (dsimp only [] <;>
       repeat' (first | apply ite_bcd_of | apply ite_fst_bcd_of | apply rol_bcd_of | rfl))
    | rfl), ?_⟩
  case h_6 => exact Or.inl (fetch_sync _ _)
  all_goals exact Or.inr (Or.inl ⟨(by
    first
    | (dsimp only [] <;>
       repeat' (first | apply ite_IR_of | apply ite_fst_IR_of | apply rol_IR_of | rfl))
    | rfl), by decide, Eq.refl true⟩)

theorem op_2F_isSome (step : Nat) (c : w65816_t) (pins : Nat) :
    (op_2F step c pins).isSome = (op_2F step (w65816_init false).1 0).isSome := by
  unfold op_2F
  split <;> first | exact Eq.refl true | exact Eq.refl false

theorem op_2F_live (step : Nat) (c : w65816_t) (pins : Nat) (r : w65816_t × Nat)
    (h : op_2F step c pins = some r) :
    r.1.bcd_enabled = c.bcd_enabled ∧
    (sync_out r.2 = true ∨
      (r.1.IR = c.IR ∧ step + 1 < 8 ∧ (op_2F (step + 1) (w65816_init false).1 0).isSome = true) ∨
      ((r.1.IR = (c.IR + 0) % 65536 ∨ r.1.IR = (c.IR + 1) % 65536) ∧ step + 2 < 8 ∧
        (op_2F (step + 1) (w65816_init false).1 0).isSome = true ∧ (op_2F (step + 2) (w65816_init false).1 0).isSome = true)) := by
  unfold op_2F at h
  split at h
  case h_4 => exact Option.noConfusion h
  all_goals cases h
  all_goals refine ⟨(by
    first
    | (dsimp only [set_A, _NZ] <;>
       repeat' (first | apply ite_bcd_of | apply ite_fst_bcd_of | rfl))
    | rfl), ?_⟩
  case h_3 => exact Or.inl (fetch_sync _ _)
  all_goals exact Or.inr (Or.inl ⟨(by
    first
    | (dsimp only [set_A, _NZ] <;>
       repeat' (first | apply ite_IR_of | apply ite_fst_IR_of | rfl))
    | rfl), by decide, Eq.refl true⟩)

theorem op_30_isSome (step : Nat) (c : w65816_t) (pins : Nat) :
    (op_30 step c pins).isSome = (op_30 step (w65816_init false).1 0).isSome := by
  unfold op_30
  split <;> first | exact Eq.refl true | exact Eq.refl false

theorem op_30_live (step : Nat) (c : w65816_t) (pins : Nat) (r : w65816_t × Nat)
    (h : op_30 step c pins = some r) :
    r.1.bcd_enabled = c.bcd_enabled ∧
    (sync_out r.2 = true ∨
      (r.1.IR = c.IR ∧ step + 1 < 8 ∧ (op_30 (step + 1) (w65816_init false).1 0).isSome = true) ∨
      ((r.1.IR = (c.IR + 0) % 65536 ∨ r.1.IR = (c.IR + 1) % 65536) ∧ step + 2 < 8 ∧
        (op_30 (step + 1) (w65816_init false).1 0).isSome = true ∧ (op_30 (step + 2) (w65816_init false).1 0).isSome = true)) := by
  unfold op_30 at h
  split at h
  case h_5 => exact Option.noConfusion h
  all_goals cases h
  all_goals refine ⟨(by
    first
    | (dsimp only [] <;>
       repeat' (first | apply ite_bcd_of | apply ite_fst_bcd_of | rfl))
    | rfl), ?_⟩
  case h_4 => exact Or.inl (fetch_sync _ _)
  all_goals exact Or.inr (Or.inl ⟨(by
    first
    | (dsimp only [] <;>
       repeat' (first | apply ite_IR_of | apply ite_fst_IR_of | rfl))
    | rfl), by decide, Eq.refl true⟩)

theorem op_31_isSome (step : Nat) (c : w65816_t) (pins : Nat) :
    (op_31 step c pins).isSome = (op_31 step (w65816_init false).1 0).isSome := by
  unfold op_31
  split <;> first | exact Eq.refl true | exact Eq.refl false

theorem op_31_live (step : Nat) (c : w65816_t) (pins : Nat) (r : w65816_t × Nat)
    (h : op_31 step c pins = some r) :
    r.1.bcd_enabled = c.bcd_enabled ∧
    (sync_out r.2 = true ∨
      (r.1.IR = c.IR ∧ step + 1 < 8 ∧ (op_31 (step + 1) (w65816_init false).1 0).isSome = true) ∨
      ((r.1.IR = (c.IR + 0) % 65536 ∨ r.1.IR = (c.IR + 1) % 65536) ∧ step + 2 < 8 ∧
        (op_31 (step + 1) (w65816_init false).1 0).isSome = true ∧ (op_31 (step + 2) (w65816_init false).1 0).isSome = true)) := by
  unfold op_31 at h
  split at h
  case h_7 => exact Option.noConfusion h
  all_goals cases h
  all_goals refine ⟨(by
    first
    | (dsimp only [set_A, _NZ] <;>
       repeat' (first | apply ite_bcd_of | apply ite_fst_bcd_of | rfl))
    | rfl), ?_⟩
  case h_4 => exact Or.inr (Or.inr ⟨skip_IR _ _, by decide, Eq.refl true, Eq.refl true⟩)
  case h_6 => exact Or.inl (fetch_sync _ _)
  all_goals exact Or.inr (Or.inl ⟨(by
    first
    | (dsimp only [set_A, _NZ] <;>
       repeat' (first | apply ite_IR_of | apply ite_fst_IR_of | rfl))
    | rfl), by decide, Eq.refl true⟩)

theorem op_32_isSome (step : Nat) (c : w65816_t) (pins : Nat) :
    (op_32 step c pins).isSome = (op_32 step (w65816_init false).1 0).isSome := by
  unfold op_32
  split <;> first | exact Eq.refl true | exact Eq.refl false

theorem op_32_live (step : Nat) (c : w65816_t) (pins : Nat) (r : w65816_t × Nat)
    (h : op_32 step c pins = some r) :
    r.1.bcd_enabled = c.bcd_enabled ∧
    (sync_out r.2 = true ∨
      (r.1.IR = c.IR ∧ step + 1 < 8 ∧ (op_32 (step + 1) (w65816_init false).1 0).isSome = true) ∨
      ((r.1.IR = (c.IR + 0) % 65536 ∨ r.1.IR = (c.IR + 1) % 65536) ∧ step + 2 < 8 ∧
        (op_32 (step + 1) (w65816_init false).1 0).isSome = true ∧ (op_32 (step + 2) (w65816_init false).1 0).isSome = true)) := by
  unfold op_32 at h
  split at h
  case h_4 => exact Option.noConfusion h
  all_goals cases h
  all_goals refine ⟨(by
    first
    | (dsimp only [set_A, _NZ] <;>
       repeat' (first | apply ite_bcd_of | apply ite_fst_bcd_of | rfl))
    | rfl), ?_⟩
  case h_3 => exact Or.inl (fetch_sync _ _)
  all_goals exact Or.inr (Or.inl ⟨(by
    first
    | (dsimp only [set_A, _NZ] <;>
       repeat' (first | apply ite_IR_of | apply ite_fst_IR_of | rfl))
    | rfl), by decide, Eq.refl true⟩)

theorem op_33_isSome (step : Nat) (c : w65816_t) (pins : Nat) :
    (op_33 step c pins).isSome = (op_33 step (w65816_init false).1 0).isSome := by
  unfold op_33
  split <;> first | exact Eq.refl true | exact Eq.refl false

theorem op_33_live (step : Nat) (c : w65816_t) (pins : Nat) (r : w65816_t × Nat)
    (h : op_33 step c pins = some r) :
    r.1.bcd_enabled = c.bcd_enabled ∧
    (sync_out r.2 = true ∨
      (r.1.IR = c.IR ∧ step + 1 < 8 ∧ (op_33 (step + 1) (w65816_init false).1 0).isSome = true) ∨
      ((r.1.IR = (c.IR + 0) % 65536 ∨ r.1.IR = (c.IR + 1) % 65536) ∧ step + 2 < 8 ∧
        (op_33 (step + 1) (w65816_init false).1 0).isSome = true ∧ (op_33 (step + 2) (w65816_init false).1 0).isSome = true)) := by
  unfold op_33 at h
  split at h
  case h_4 => exact Option.noConfusion h
  all_goals cases h
  all_goals refine ⟨(by
    first
    | (dsimp only [set_A, _NZ] <;>
       repeat' (first | apply ite_bcd_of | apply ite_fst_bcd_of | rfl))
    | rfl), ?_⟩
  case h_3 => exact Or.inl (fetch_sync _ _)
  all_goals exact Or.inr (Or.inl ⟨(by
    first
    | (dsimp only [set_A, _NZ] <;>
       repeat' (first | apply ite_IR_of | apply ite_fst_IR_of | rfl))
    | rfl), by decide, Eq.refl true⟩)

theorem op_34_isSome (step : Nat) (c : w65816_t) (pins : Nat) :
    (op_34 step c pins).isSome = (op_34 step (w65816_init false).1 0).isSome := by
  unfold op_34
  split <;> first | exact Eq.refl true | exact Eq.refl false

theorem op_34_live (step : Nat) (c : w65816_t) (pins : Nat) (r : w65816_t × Nat)
    (h : op_34 step c pins = some r) :
    r.1.bcd_enabled = c.bcd_enabled ∧
    (sync_out r.2 = true ∨
      (r.1.IR = c.IR ∧ step + 1 < 8 ∧ (op_34 (step + 1) (w65816_init false).1 0).isSome = true) ∨
      ((r.1.IR = (c.IR + 0) % 65536 ∨ r.1.IR = (c.IR + 1) % 65536) ∧ step + 2 < 8 ∧
        (op_34 (step + 1) (w65816_init false).1 0).isSome = true ∧ (op_34 (step + 2) (w65816_init false).1 0).isSome = true)) := by
  unfold op_34 at h
  split at h
  case h_5 => exact Option.noConfusion h
  all_goals cases h
  all_goals refine ⟨(by
    first
    | (dsimp only [] <;>
       repeat' (first | apply ite_bcd_of | apply ite_fst_bcd_of | apply bit_bcd_of | rfl))
    | rfl), ?_⟩
  case h_4 => exact Or.inl (fetch_sync _ _)
  all_goals exact Or.inr (Or.inl ⟨(by
    first
    | (dsimp only [] <;>
       repeat' (first | apply ite_IR_of | apply ite_fst_IR_of | apply bit_IR_of | rfl))
    | rfl), by decide, Eq.refl true⟩)

theorem op_35_isSome (step : Nat) (c : w65816_t) (pins : Nat) :
    (op_35 step c pins).isSome = (op_35 step (w65816_init false).1 0).isSome := by
  unfold op_35
  split <;> first | exact Eq.refl true | exact Eq.refl false

theorem op_35_live (step : Nat) (c : w65816_t) (pins : Nat) (r : w65816_t × Nat)
    (h : op_35 step c pins = some r) :
    r.1.bcd_enabled = c.bcd_enabled ∧
    (sync_out r.2 = true ∨
      (r.1.IR = c.IR ∧ step + 1 < 8 ∧ (op_35 (step + 1) (w65816_init false).1 0).isSome = true) ∨
      ((r.1.IR = (c.IR + 0) % 65536 ∨ r.1.IR = (c.IR + 1) % 65536) ∧ step + 2 < 8 ∧
        (op_35 (step + 1) (w65816_init false).1 0).isSome = true ∧ (op_35 (step + 2) (w65816_init false).1 0).isSome = true)) := by
  unfold op_35 at h
  split at h
  case h_5 => exact Option.noConfusion h
  all_goals cases h
  all_goals refine ⟨(by
    first
    | (dsimp only [set_A, _NZ] <;>
       repeat' (first | apply ite_bcd_of | apply ite_fst_bcd_of | rfl))
    | rfl), ?_⟩
  case h_4 => exact Or.inl (fetch_sync _ _)
  all_goals exact Or.inr (Or.inl ⟨(by
    first
    | (dsimp only [set_A, _NZ] <;>
       repeat' (first | apply ite_IR_of | apply ite_fst_IR_of | rfl))
    | rfl), by decide, Eq.refl true⟩)

theorem op_36_isSome (step : Nat) (c : w65816_t) (pins : Nat) :
    (op_36 step c pins).isSome = (op_36 step (w65816_init false).1 0).isSome := by
  unfold op_36
  split <;> first | exact Eq.refl true | exact Eq.refl false

theorem op_36_live (step : Nat) (c : w65816_t) (pins : Nat) (r : w65816_t × Nat)
    (h : op_36 step c pins = some r) :
    r.1.bcd_enabled = c.bcd_enabled ∧
    (sync_out r.2 = true ∨
      (r.1.IR = c.IR ∧ step + 1 < 8 ∧ (op_36 (step + 1) (w65816_init false).1 0).isSome = true) ∨
      ((r.1.IR = (c.IR + 0) % 65536 ∨ r.1.IR = (c.IR + 1) % 65536) ∧ step + 2 < 8 ∧
        (op_36 (step + 1) (w65816_init false).1 0).isSome = true ∧ (op_36 (step + 2) (w65816_init false).1 0).isSome = true)) := by
  unfold op_36 at h
  split at h
  case h_7 => exact Option.noConfusion h
  all_goals cases h
  all_goals refine ⟨(by
    first
    | (dsimp only [] <;>
       repeat' (first | apply ite_bcd_of | apply ite_fst_bcd_of | apply rol_bcd_of | rfl))
    | rfl), ?_⟩
  case h_6 => exact Or.inl (fetch_sync _ _)
  all_goals exact Or.inr (Or.inl ⟨(by
    first
    | (dsimp only [] <;>
       repeat' (first | apply ite_IR_of | apply ite_fst_IR_of | apply rol_IR_of | rfl))
    | rfl), by decide, Eq.refl true⟩)

theorem op_37_isSome (step : Nat) (c : w65816_t) (pins : Nat) :
    (op_37 step c pins).isSome = (op_37 step (w65816_init false).1 0).isSome := by
  unfold op_37
  split <;> first | exact Eq.refl true | exact Eq.refl false

theorem op_37_live (step : Nat) (c : w65816_t) (pins : Nat) (r : w65816_t × Nat)
    (h : op_37 step c pins = some r) :
    r.1.bcd_enabled = c.bcd_enabled ∧
    (sync_out r.2 = true ∨
      (r.1.IR = c.IR ∧ step + 1 < 8 ∧ (op_37 (step + 1) (w65816_init false).1 0).isSome = true) ∨
      ((r.1.IR = (c.IR + 0) % 65536 ∨ r.1.IR = (c.IR + 1) % 65536) ∧ step + 2 < 8 ∧
        (op_37 (step + 1) (w65816_init false).1 0).isSome = true ∧ (op_37 (step + 2) (w65816_init false).1 0).isSome = true)) := by
  unfold op_37 at h
  split at h
  case h_4 => exact Option.noConfusion h
  all_goals cases h
  all_goals refine ⟨(by
    first
    | (dsimp only [set_A, _NZ] <;>
       repeat' (first | apply ite_bcd_of | apply ite_fst_bcd_of | rfl))
    | rfl), ?_⟩
  case h_3 => exact Or.inl (fetch_sync _ _)
  all_goals exact Or.inr (Or.inl ⟨(by
    first
    | (dsimp only [set_A, _NZ] <;>
       repeat' (first | apply ite_IR_of | apply ite_fst_IR_of | rfl))
    | rfl), by decide, Eq.refl true⟩)

theorem op_38_isSome (step : Nat) (c : w65816_t) (pins : Nat) :
    (op_38 step c pins).isSome = (op_38 step (w65816_init false).1 0).isSome := by
  unfold op_38
  split <;> first | exact Eq.refl true | exact Eq.refl false

theorem op_38_live (step : Nat) (c : w65816_t) (pins : Nat) (r : w65816_t × Nat)
    (h : op_38 step c pins = some r) :
    r.1.bcd_enabled = c.bcd_enabled ∧
    (sync_out r.2 = true ∨
      (r.1.IR = c.IR ∧ step + 1 < 8 ∧ (op_38 (step + 1) (w65816_init false).1 0).isSome = true) ∨
      ((r.1.IR = (c.IR + 0) % 65536 ∨ r.1.IR = (c.IR + 1) % 65536) ∧ step + 2 < 8 ∧
        (op_38 (step + 1) (w65816_init false).1 0).isSome = true ∧ (op_38 (step + 2) (w65816_init false).1 0).isSome = true)) := by
  unfold op_38 at h
  split at h
  case h_3 => exact Option.noConfusion h
  all_goals cases h
  all_goals refine ⟨(by
    first
    | (dsimp only [] <;>
       repeat' (first | apply ite_bcd_of | apply ite_fst_bcd_of | rfl))
    | rfl), ?_⟩
  case h_2 => exact Or.inl (fetch_sync _ _)
  all_goals exact Or.inr (Or.inl ⟨(by
    first
    | (dsimp only [] <;>
       repeat' (first | apply ite_IR_of | apply ite_fst_IR_of | rfl))
    | rfl), by decide, Eq.refl true⟩)

theorem op_39_isSome (step : Nat) (c : w65816_t) (pins : Nat) :
    (op_39 step c pins).isSome = (op_39 step (w65816_init false).1 0).isSome := by
  unfold op_39
  split <;> first | exact Eq.refl true | exact Eq.refl false

theorem op_39_live (step : Nat) (c : w65816_t) (pins : Nat) (r : w65816_t × Nat)
    (h : op_39 step c pins = some r) :
    r.1.bcd_enabled = c.bcd_enabled ∧
    (sync_out r.2 = true ∨
      (r.1.IR = c.IR ∧ step + 1 < 8 ∧ (op_39 (step + 1) (w65816_init false).1 0).isSome = true) ∨
      ((r.1.IR = (c.IR + 0) % 65536 ∨ r.1.IR = (c.IR + 1) % 65536) ∧ step + 2 < 8 ∧
        (op_39 (step + 1) (w65816_init false).1 0).isSome = true ∧ (op_39 (step + 2) (w65816_init false).1 0).isSome = true)) := by
  unfold op_39 at h
  split at h
  case h_6 => exact Option.noConfusion h
  all_goals cases h
  all_goals refine ⟨(by
    first
    | (dsimp only [set_A, _NZ] <;>
       repeat' (first | apply ite_bcd_of | apply ite_fst_bcd_of | rfl))
    | rfl), ?_⟩
  case h_3 => exact Or.inr (Or.inr ⟨skip_IR _ _, by decide, Eq.refl true, Eq.refl true⟩)
  case h_5 => exact Or.inl (fetch_sync _ _)
  all_goals exact Or.inr (Or.inl ⟨(by
    first
    | (dsimp only [set_A, _NZ] <;>
       repeat' (first | apply ite_IR_of | apply ite_fst_IR_of | rfl))
    | rfl), by decide, Eq.refl true⟩)

theorem op_3A_isSome (step : Nat) (c : w65816_t) (pins : Nat) :
    (op_3A step c pins).isSome = (op_3A step (w65816_init false).1 0).isSome := by
  unfold op_3A
  split <;> first | exact Eq.refl true | exact Eq.refl false

theorem op_3A_live (step : Nat) (c : w65816_t) (pins : Nat) (r : w65816_t × Nat)
    (h : op_3A step c pins = some r) :
    r.1.bcd_enabled = c.bcd_enabled ∧
    (sync_out r.2 = true ∨
      (r.1.IR = c.IR ∧ step + 1 < 8 ∧ (op_3A (step + 1) (w65816_init false).1 0).isSome = true) ∨
      ((r.1.IR = (c.IR + 0) % 65536 ∨ r.1.IR = (c.IR + 1) % 65536) ∧ step + 2 < 8 ∧
        (op_3A (step + 1) (w65816_init false).1 0).isSome = true ∧ (op_3A (step + 2) (w65816_init false).1 0).isSome = true)) := by
  unfold op_3A at h
  split at h
  case h_3 => exact Option.noConfusion h
  all_goals cases h
  all_goals refine ⟨(by
    first
    | (dsimp only [set_A, _NZ] <;>
       repeat' (first | apply ite_bcd_of | apply ite_fst_bcd_of | rfl))
    | rfl), ?_⟩
  case h_2 => exact Or.inl (fetch_sync _ _)
  all_goals exact Or.inr (Or.inl ⟨(by
    first
    | (dsimp only [set_A, _NZ] <;>
       repeat' (first | apply ite_IR_of | apply ite_fst_IR_of | rfl))
    | rfl), by decide, Eq.refl true⟩)

theorem op_3B_isSome (step : Nat) (c : w65816_t) (pins : Nat) :
    (op_3B step c pins).isSome = (op_3B step (w65816_init false).1 0).isSome := by
  unfold op_3B
  split <;> first | exact Eq.refl true | exact Eq.refl false

theorem op_3B_live (step : Nat) (c : w65816_t) (pins : Nat) (r : w65816_t × Nat)
    (h : op_3B step c pins = some r) :
    r.1.bcd_enabled = c.bcd_enabled ∧
    (sync_out r.2 = true ∨
      (r.1.IR = c.IR ∧ step + 1 < 8 ∧ (op_3B (step + 1) (w65816_init false).1 0).isSome = true) ∨
      ((r.1.IR = (c.IR + 0) % 65536 ∨ r.1.IR = (c.IR + 1) % 65536) ∧ step + 2 < 8 ∧
        (op_3B (step + 1) (w65816_init false).1 0).isSome = true ∧ (op_3B (step + 2) (w65816_init false).1 0).isSome = true)) := by
  unfold op_3B at h
  split at h
  case h_4 => exact Option.noConfusion h
  all_goals cases h
  all_goals refine ⟨(by
    first
    | (dsimp only [_NZ] <;>
       repeat' (first | apply ite_bcd_of | apply ite_fst_bcd_of | rfl))
    | rfl), ?_⟩
  case h_3 => exact Or.inl (fetch_sync _ _)
  all_goals exact Or.inr (Or.inl ⟨(by
    first
    | (dsimp only [_NZ] <;>
       repeat' (first | apply ite_IR_of | apply ite_fst_IR_of | rfl))
    | rfl), by decide, Eq.refl true⟩)

theorem op_3C_isSome (step : Nat) (c : w65816_t) (pins : Nat) :
    (op_3C step c pins).isSome = (op_3C step (w65816_init false).1 0).isSome := by
  unfold op_3C
  split <;> first | exact Eq.refl true | exact Eq.refl false

theorem op_3C_live (step : Nat) (c : w65816_t) (pins : Nat) (r : w65816_t × Nat)
    (h : op_3C step c pins = some r) :
    r.1.bcd_enabled = c.bcd_enabled ∧
    (sync_out r.2 = true ∨
      (r.1.IR = c.IR ∧ step + 1 < 8 ∧ (op_3C (step + 1) (w65816_init false).1 0).isSome = true) ∨
      ((r.1.IR = (c.IR + 0) % 65536 ∨ r.1.IR = (c.IR + 1) % 65536) ∧ step + 2 < 8 ∧
        (op_3C (step + 1) (w65816_init false).1 0).isSome = true ∧ (op_3C (step + 2) (w65816_init false).1 0).isSome = true)) := by
  unfold op_3C at h
  split at h
  case h_6 => exact Option.noConfusion h
  all_goals cases h
  all_goals refine ⟨(by
    first
    | (dsimp only [] <;>
       repeat' (first | apply ite_bcd_of | apply ite_fst_bcd_of | apply bit_bcd_of | rfl))
    | rfl), ?_⟩
  case h_3 => exact Or.inr (Or.inr ⟨skip_IR _ _, by decide, Eq.refl true, Eq.refl true⟩)
  case h_5 => exact Or.inl (fetch_sync _ _)
  all_goals exact Or.inr (Or.inl ⟨(by
    first
    | (dsimp only [] <;>
       repeat' (first | apply ite_IR_of | apply ite_fst_IR_of | apply bit_IR_of | rfl))
    | rfl), by decide, Eq.refl true⟩)

theorem op_3D_isSome (step : Nat) (c : w65816_t) (pins : Nat) :
    (op_3D step c pins).isSome = (op_3D step (w65816_init false).1 0).isSome := by
  unfold op_3D
  split <;> first | exact Eq.refl true | exact Eq.refl false

theorem op_3D_live (step : Nat) (c : w65816_t) (pins : Nat) (r : w65816_t × Nat)
    (h : op_3D step c pins = some r) :
    r.1.bcd_enabled = c.bcd_enabled ∧
    (sync_out r.2 = true ∨
      (r.1.IR = c.IR ∧ step + 1 < 8 ∧ (op_3D (step + 1) (w65816_init false).1 0).isSome = true) ∨
      ((r.1.IR = (c.IR + 0) % 65536 ∨ r.1.IR = (c.IR + 1) % 65536) ∧ step + 2 < 8 ∧
        (op_3D (step + 1) (w65816_init false).1 0).isSome = true ∧ (op_3D (step + 2) (w65816_init false).1 0).isSome = true)) := by
  unfold op_3D at h
  split at h
  case h_6 => exact Option.noConfusion h
  all_goals cases h
  all_goals refine ⟨(by
    first
    | (dsimp only [set_A, _NZ] <;>
       repeat' (first | apply ite_bcd_of | apply ite_fst_bcd_of | rfl))
    | rfl), ?_⟩
  case h_3 => exact Or.inr (Or.inr ⟨skip_IR _ _, by decide, Eq.refl true, Eq.refl true⟩)
  case h_5 => exact Or.inl (fetch_sync _ _)
  all_goals exact Or.inr (Or.inl ⟨(by
    first
    | (dsimp only [set_A, _NZ] <;>
       repeat' (first | apply ite_IR_of | apply ite_fst_IR_of | rfl))
    | rfl), by decide, Eq.refl true⟩)

theorem op_3E_isSome (step : Nat) (c : w65816_t) (pins : Nat) :
    (op_3E step c pins).isSome = (op_3E step (w65816_init false).1 0).isSome := by
  unfold op_3E
  split <;> first | exact Eq.refl true | exact Eq.refl false

theorem op_3E_live (step : Nat) (c : w65816_t) (pins : Nat) (r : w65816_t × Nat)
    (h : op_3E step c pins = some r) :
    r.1.bcd_enabled = c.bcd_enabled ∧
    (sync_out r.2 = true ∨
      (r.1.IR = c.IR ∧ step + 1 < 8 ∧ (op_3E (step + 1) (w65816_init false).1 0).isSome = true) ∨
      ((r.1.IR = (c.IR + 0) % 65536 ∨ r.1.IR = (c.IR + 1) % 65536) ∧ step + 2 < 8 ∧
        (op_3E (step + 1) (w65816_init false).1 0).isSome = true ∧ (op_3E (step + 2) (w65816_init false).1 0).isSome = true)) := by
  unfold op_3E at h
  split at h
  case h_8 => exact Option.noConfusion h
  all_goals cases h
  all_goals refine ⟨(by
    first
    | (dsimp only [] <;>
       repeat' (first | apply ite_bcd_of | apply ite_fst_bcd_of | apply rol_bcd_of | rfl))
    | rfl), ?_⟩
  case h_7 => exact Or.inl (fetch_sync _ _)
  all_goals exact Or.inr (Or.inl ⟨(by
    first
    | (dsimp only [] <;>
       repeat' (first | apply ite_IR_of | apply ite_fst_IR_of | apply rol_IR_of | rfl))
    | rfl), by decide, Eq.refl true⟩)

theorem op_3F_isSome (step : Nat) (c : w65816_t) (pins : Nat) :
    (op_3F step c pins).isSome = (op_3F step (w65816_init false).1 0).isSome := by
  unfold op_3F
  split <;> first | exact Eq.refl true | exact Eq.refl false

theorem op_3F_live (step : Nat) (c : w65816_t) (pins : Nat) (r : w65816_t × Nat)
    (h : op_3F step c pins = some r) :
    r.1.bcd_enabled = c.bcd_enabled ∧
    (sync_out r.2 = true ∨
      (r.1.IR = c.IR ∧ step + 1 < 8 ∧ (op_3F (step + 1) (w65816_init false).1 0).isSome = true) ∨
      ((r.1.IR = (c.IR + 0) % 65536 ∨ r.1.IR = (c.IR + 1) % 65536) ∧ step + 2 < 8 ∧
        (op_3F (step + 1) (w65816_init false).1 0).isSome = true ∧ (op_3F (step + 2) (w65816_init false).1 0).isSome = true)) := by
  unfold op_3F at h
  split at h
  case h_4 => exact Option.noConfusion h
  all_goals cases h
  all_goals refine ⟨(by
    first
    | (dsimp only [set_A, _NZ] <;>
       repeat' (first | apply ite_bcd_of | apply ite_fst_bcd_of | rfl))
    | rfl), ?_⟩
  case h_3 => exact Or.inl (fetch_sync _ _)
  all_goals exact Or.inr (Or.inl ⟨(by
    first
    | (dsimp only [set_A, _NZ] <;>
       repeat' (first | apply ite_IR_of | apply ite_fst_IR_of | rfl))
    | rfl), by decide, Eq.refl true⟩)

theorem op_40_isSome (step : Nat) (c : w65816_t) (pins : Nat) :
    (op_40 step c pins).isSome = (op_40 step (w65816_init false).1 0).isSome := by
  unfold op_40
  split <;> first | exact Eq.refl true | exact Eq.refl false

theorem op_40_live (step : Nat) (c : w65816_t) (pins : Nat) (r : w65816_t × Nat)
    (h : op_40 step c pins = some r) :
    r.1.bcd_enabled = c.bcd_enabled ∧
    (sync_out r.2 = true ∨
      (r.1.IR = c.IR ∧ step + 1 < 8 ∧ (op_40 (step + 1) (w65816_init false).1 0).isSome = true) ∨
      ((r.1.IR = (c.IR + 0) % 65536 ∨ r.1.IR = (c.IR + 1) % 65536) ∧ step + 2 < 8 ∧
        (op_40 (step + 1) (w65816_init false).1 0).isSome = true ∧ (op_40 (step + 2) (w65816_init false).1 0).isSome = true)) := by
  unfold op_40 at h
  split at h
  case h_7 => exact Option.noConfusion h
  all_goals cases h
  all_goals refine ⟨(by
    first
    | (dsimp only [set_S] <;>
       repeat' (first | apply ite_bcd_of | apply ite_fst_bcd_of | rfl))
    | rfl), ?_⟩
  case h_6 => exact Or.inl (fetch_sync _ _)
  all_goals exact Or.inr (Or.inl ⟨(by
    first
    | (dsimp only [set_S] <;>
       repeat' (first | apply ite_IR_of | apply ite_fst_IR_of | rfl))
    | rfl), by decide, Eq.refl true⟩)

theorem op_41_isSome (step : Nat) (c : w65816_t) (pins : Nat) :
    (op_41 step c pins).isSome = (op_41 step (w65816_init false).1 0).isSome := by
  unfold op_41
  split <;> first | exact Eq.refl true | exact Eq.refl false

theorem op_41_live (step : Nat) (c : w65816_t) (pins : Nat) (r : w65816_t × Nat)
    (h : op_41 step c pins = some r) :
    r.1.bcd_enabled = c.bcd_enabled ∧
    (sync_out r.2 = true ∨
      (r.1.IR = c.IR ∧ step + 1 < 8 ∧ (op_41 (step + 1) (w65816_init false).1 0).isSome = true) ∨
      ((r.1.IR = (c.IR + 0) % 65536 ∨ r.1.IR = (c.IR + 1) % 65536) ∧ step + 2 < 8 ∧
        (op_41 (step + 1) (w65816_init false).1 0).isSome = true ∧ (op_41 (step + 2) (w65816_init false).1 0).isSome = true)) := by
  unfold op_41 at h
  split at h
  case h_7 => exact Option.noConfusion h
  all_goals cases h
  all_goals refine ⟨(by
    first
    | (dsimp only [set_A, _NZ] <;>
       repeat' (first | apply ite_bcd_of | apply ite_fst_bcd_of | rfl))
    | rfl), ?_⟩
  case h_6 => exact Or.inl (fetch_sync _ _)
  all_goals exact Or.inr (Or.inl ⟨(by
    first
    | (dsimp only [set_A, _NZ] <;>
       repeat' (first | apply ite_IR_of | apply ite_fst_IR_of | rfl))
    | rfl), by decide, Eq.refl true⟩)

theorem op_42_isSome (step : Nat) (c : w65816_t) (pins : Nat) :
    (op_42 step c pins).isSome = (op_42 step (w65816_init false).1 0).isSome := by
  unfold op_42
  split <;> first | exact Eq.refl true | exact Eq.refl false

theorem op_42_live (step : Nat) (c : w65816_t) (pins : Nat) (r : w65816_t × Nat)
    (h : op_42 step c pins = some r) :
    r.1.bcd_enabled = c.bcd_enabled ∧
    (sync_out r.2 = true ∨
      (r.1.IR = c.IR ∧ step + 1 < 8 ∧ (op_42 (step + 1) (w65816_init false).1 0).isSome = true) ∨
      ((r.1.IR = (c.IR + 0) % 65536 ∨ r.1.IR = (c.IR + 1) % 65536) ∧ step + 2 < 8 ∧
        (op_42 (step + 1) (w65816_init false).1 0).isSome = true ∧ (op_42 (step + 2) (w65816_init false).1 0).isSome = true)) := by
  unfold op_42 at h
  split at h
  case h_3 => exact Option.noConfusion h
  all_goals cases h
  all_goals refine ⟨(by
    first
    | (dsimp only [] <;>
       repeat' (first | apply ite_bcd_of | apply ite_fst_bcd_of | rfl))
    | rfl), ?_⟩
  case h_2 => exact Or.inl (fetch_sync _ _)
  all_goals exact Or.inr (Or.inl ⟨(by
    first
    | (dsimp only [] <;>
       repeat' (first | apply ite_IR_of | apply ite_fst_IR_of | rfl))
    | rfl), by decide, Eq.refl true⟩)

theorem op_43_isSome (step : Nat) (c : w65816_t) (pins : Nat) :
    (op_43 step c pins).isSome = (op_43 step (w65816_init false).1 0).isSome := by
  unfold op_43
  split <;> first | exact Eq.refl true | exact Eq.refl false

theorem op_43_live (step : Nat) (c : w65816_t) (pins : Nat) (r : w65816_t × Nat)
    (h : op_43 step c pins = some r) :
    r.1.bcd_enabled = c.bcd_enabled ∧
    (sync_out r.2 = true ∨
      (r.1.IR = c.IR ∧ step + 1 < 8 ∧ (op_43 (step + 1) (w65816_init false).1 0).isSome = true) ∨
      ((r.1.IR = (c.IR + 0) % 65536 ∨ r.1.IR = (c.IR + 1) % 65536) ∧ step + 2 < 8 ∧
        (op_43 (step + 1) (w65816_init false).1 0).isSome = true ∧ (op_43 (step + 2) (w65816_init false).1 0).isSome = true)) := by
  unfold op_43 at h
  split at h
  case h_4 => exact Option.noConfusion h
  all_goals cases h
  all_goals refine ⟨(by
    first
    | (dsimp only [set_A, _NZ] <;>
       repeat' (first | apply ite_bcd_of | apply ite_fst_bcd_of | rfl))
    | rfl), ?_⟩
  case h_3 => exact Or.inl (fetch_sync _ _)
  all_goals exact Or.inr (Or.inl ⟨(by
    first
    | (dsimp only [set_A, _NZ] <;>
       repeat' (first | apply ite_IR_of | apply ite_fst_IR_of | rfl))
    | rfl), by decide, Eq.refl true⟩)

theorem op_44_isSome (step : Nat) (c : w65816_t) (pins : Nat) :
    (op_44 step c pins).isSome = (op_44 step (w65816_init false).1 0).isSome := by
  unfold op_44
  split <;> first | exact Eq.refl true | exact Eq.refl false

theorem op_44_live (step : Nat) (c : w65816_t) (pins : Nat) (r : w65816_t × Nat)
    (h : op_44 step c pins = some r) :
    r.1.bcd_enabled = c.bcd_enabled ∧
    (sync_out r.2 = true ∨
      (r.1.IR = c.IR ∧ step + 1 < 8 ∧ (op_44 (step + 1) (w65816_init false).1 0).isSome = true) ∨
      ((r.1.IR = (c.IR + 0) % 65536 ∨ r.1.IR = (c.IR + 1) % 65536) ∧ step + 2 < 8 ∧
        (op_44 (step + 1) (w65816_init false).1 0).isSome = true ∧ (op_44 (step + 2) (w65816_init false).1 0).isSome = true)) := by
  unfold op_44 at h
  split at h
  case h_8 => exact Option.noConfusion h
  case h_3 =>
    cases h
    exact ⟨(dec_X_frame c _ _).1, Or.inr (Or.inl ⟨(dec_X_frame c _ _).2, by decide, Eq.refl true⟩)⟩
  case h_4 =>
    cases h
    exact ⟨(dec_Y_frame c _ _).1, Or.inr (Or.inl ⟨(dec_Y_frame c _ _).2, by decide, Eq.refl true⟩)⟩
  all_goals cases h
  all_goals refine ⟨(by
    first
    | (dsimp only [] <;>
       repeat' (first | apply ite_bcd_of | apply ite_fst_bcd_of | rfl))
    | rfl), ?_⟩
  case h_7 => exact Or.inl (fetch_sync _ _)
  all_goals exact Or.inr (Or.inl ⟨(by
    first
    | (dsimp only [] <;>
       repeat' (first | apply ite_IR_of | apply ite_fst_IR_of | rfl))
    | rfl), by decide, Eq.refl true⟩)

theorem op_45_isSome (step : Nat) (c : w65816_t) (pins : Nat) :
    (op_45 step c pins).isSome = (op_45 step (w65816_init false).1 0).isSome := by
  unfold op_45
  split <;> first | exact Eq.refl true | exact Eq.refl false

theorem op_45_live (step : Nat) (c : w65816_t) (pins : Nat) (r : w65816_t × Nat)
    (h : op_45 step c pins = some r) :
    r.1.bcd_enabled = c.bcd_enabled ∧
    (sync_out r.2 = true ∨
      (r.1.IR = c.IR ∧ step + 1 < 8 ∧ (op_45 (step + 1) (w65816_init false).1 0).isSome = true) ∨
      ((r.1.IR = (c.IR + 0) % 65536 ∨ r.1.IR = (c.IR + 1) % 65536) ∧ step + 2 < 8 ∧
        (op_45 (step + 1) (w65816_init false).1 0).isSome = true ∧ (op_45 (step + 2) (w65816_init false).1 0).isSome = true)) := by
  unfold op_45 at h
  split at h
  case h_4 => exact Option.noConfusion h
  all_goals cases h
  all_goals refine ⟨(by
    first
    | (dsimp only [set_A, _NZ] <;>
       repeat' (first | apply ite_bcd_of | apply ite_fst_bcd_of | rfl))
    | rfl), ?_⟩
  case h_3 => exact Or.inl (fetch_sync _ _)
  all_goals exact Or.inr (Or.inl ⟨(by
    first
    | (dsimp only [set_A, _NZ] <;>
       repeat' (first | apply ite_IR_of | apply ite_fst_IR_of | rfl))
    | rfl), by decide, Eq.refl true⟩)

theorem op_46_isSome (step : Nat) (c : w65816_t) (pins : Nat) :
    (op_46 step c pins).isSome = (op_46 step (w65816_init false).1 0).isSome := by
  unfold op_46
  split <;> first | exact Eq.refl true | exact Eq.refl false

theorem op_46_live (step : Nat) (c : w65816_t) (pins : Nat) (r : w65816_t × Nat)
    (h : op_46 step c pins = some r) :
    r.1.bcd_enabled = c.bcd_enabled ∧
    (sync_out r.2 = true ∨
      (r.1.IR = c.IR ∧ step + 1 < 8 ∧ (op_46 (step + 1) (w65816_init false).1 0).isSome = true) ∨
      ((r.1.IR = (c.IR + 0) % 65536 ∨ r.1.IR = (c.IR + 1) % 65536) ∧ step + 2 < 8 ∧
        (op_46 (step + 1) (w65816_init false).1 0).isSome = true ∧ (op_46 (step + 2) (w65816_init false).1 0).isSome = true)) := by
  unfold op_46 at h
  split at h
  case h_6 => exact Option.noConfusion h
  all_goals cases h
  all_goals refine ⟨(by
    first
    | (dsimp only [_w65816_lsr] <;>
       repeat' (first | apply ite_bcd_of | apply ite_fst_bcd_of | rfl))
    | rfl), ?_⟩
  case h_5 => exact Or.inl (fetch_sync _ _)
  all_goals exact Or.inr (Or.inl ⟨(by
    first
    | (dsimp only [_w65816_lsr] <;>
       repeat' (first | apply ite_IR_of | apply ite_fst_IR_of | rfl))
    | rfl), by decide, Eq.refl true⟩)

theorem op_47_isSome (step : Nat) (c : w65816_t) (pins : Nat) :
    (op_47 step c pins).isSome = (op_47 step (w65816_init false).1 0).isSome := by
  unfold op_47
  split <;> first | exact Eq.refl true | exact Eq.refl false

theorem op_47_live (step : Nat) (c : w65816_t) (pins : Nat) (r : w65816_t × Nat)
    (h : op_47 step c pins = some r) :
    r.1.bcd_enabled = c.bcd_enabled ∧
    (sync_out r.2 = true ∨
      (r.1.IR = c.IR ∧ step + 1 < 8 ∧ (op_47 (step + 1) (w65816_init false).1 0).isSome = true) ∨
      ((r.1.IR = (c.IR + 0) % 65536 ∨ r.1.IR = (c.IR + 1) % 65536) ∧ step + 2 < 8 ∧
        (op_47 (step + 1) (w65816_init false).1 0).isSome = true ∧ (op_47 (step + 2) (w65816_init false).1 0).isSome = true)) := by
  unfold op_47 at h
  split at h
  case h_4 => exact Option.noConfusion h
  all_goals cases h
  all_goals refine ⟨(by
    first
    | (dsimp only [set_A, _NZ] <;>
       repeat' (first | apply ite_bcd_of | apply ite_fst_bcd_of | rfl))
    | rfl), ?_⟩
  case h_3 => exact Or.inl (fetch_sync _ _)
  all_goals exact Or.inr (Or.inl ⟨(by
    first
    | (dsimp only [set_A, _NZ] <;>
       repeat' (first | apply ite_IR_of | apply ite_fst_IR_of | rfl))
    | rfl), by decide, Eq.refl true⟩)

theorem op_48_isSome (step : Nat) (c : w65816_t) (pins : Nat) :
    (op_48 step c pins).isSome = (op_48 step (w65816_init false).1 0).isSome := by
  unfold op_48
  split <;> first | exact Eq.refl true | exact Eq.refl false

theorem op_48_live (step : Nat) (c : w65816_t) (pins : Nat) (r : w65816_t × Nat)
    (h : op_48 step c pins = some r) :
    r.1.bcd_enabled = c.bcd_enabled ∧
    (sync_out r.2 = true ∨
      (r.1.IR = c.IR ∧ step + 1 < 8 ∧ (op_48 (step + 1) (w65816_init false).1 0).isSome = true) ∨
      ((r.1.IR = (c.IR + 0) % 65536 ∨ r.1.IR = (c.IR + 1) % 65536) ∧ step + 2 < 8 ∧
        (op_48 (step + 1) (w65816_init false).1 0).isSome = true ∧ (op_48 (step + 2) (w65816_init false).1 0).isSome = true)) := by
  unfold op_48 at h
  split at h
  case h_4 => exact Option.noConfusion h
  all_goals cases h
  all_goals refine ⟨(by
    first
    | (dsimp only [set_S] <;>
       repeat' (first | apply ite_bcd_of | apply ite_fst_bcd_of | rfl))
    | rfl), ?_⟩
  case h_3 => exact Or.inl (fetch_sync _ _)
  all_goals exact Or.inr (Or.inl ⟨(by
    first
    | (dsimp only [set_S] <;>
       repeat' (first | apply ite_IR_of | apply ite_fst_IR_of | rfl))
    | rfl), by decide, Eq.refl true⟩)

theorem op_49_isSome (step : Nat) (c : w65816_t) (pins : Nat) :
    (op_49 step c pins).isSome = (op_49 step (w65816_init false).1 0).isSome := by
  unfold op_49
  split <;> first | exact Eq.refl true | exact Eq.refl false

theorem op_49_live (step : Nat) (c : w65816_t) (pins : Nat) (r : w65816_t × Nat)
    (h : op_49 step c pins = some r) :
    r.1.bcd_enabled = c.bcd_enabled ∧
    (sync_out r.2 = true ∨
      (r.1.IR = c.IR ∧ step + 1 < 8 ∧ (op_49 (step + 1) (w65816_init false).1 0).isSome = true) ∨
      ((r.1.IR = (c.IR + 0) % 65536 ∨ r.1.IR = (c.IR + 1) % 65536) ∧ step + 2 < 8 ∧
        (op_49 (step + 1) (w65816_init false).1 0).isSome = true ∧ (op_49 (step + 2) (w65816_init false).1 0).isSome = true)) := by
  unfold op_49 at h
  split at h
  case h_3 => exact Option.noConfusion h
  all_goals cases h
  all_goals refine ⟨(by
    first
    | (dsimp only [set_A, _NZ] <;>
       repeat' (first | apply ite_bcd_of | apply ite_fst_bcd_of | rfl))
    | rfl), ?_⟩
  case h_2 => exact Or.inl (fetch_sync _ _)
  all_goals exact Or.inr (Or.inl ⟨(by
    first
    | (dsimp only [set_A, _NZ] <;>
       repeat' (first | apply ite_IR_of | apply ite_fst_IR_of | rfl))
    | rfl), by decide, Eq.refl true⟩)

theorem op_4A_isSome (step : Nat) (c : w65816_t) (pins : Nat) :
    (op_4A step c pins).isSome = (op_4A step (w65816_init false).1 0).isSome := by
  unfold op_4A
  split <;> first | exact Eq.refl true | exact Eq.refl false

theorem op_4A_live (step : Nat) (c : w65816_t) (pins : Nat) (r : w65816_t × Nat)
    (h : op_4A step c pins = some r) :
    r.1.bcd_enabled = c.bcd_enabled ∧
    (sync_out r.2 = true ∨
      (r.1.IR = c.IR ∧ step + 1 < 8 ∧ (op_4A (step + 1) (w65816_init false).1 0).isSome = true) ∨
      ((r.1.IR = (c.IR + 0) % 65536 ∨ r.1.IR = (c.IR + 1) % 65536) ∧ step + 2 < 8 ∧
        (op_4A (step + 1) (w65816_init false).1 0).isSome = true ∧ (op_4A (step + 2) (w65816_init false).1 0).isSome = true)) := by
  unfold op_4A at h
  split at h
  case h_3 => exact Option.noConfusion h
  all_goals cases h
  all_goals refine ⟨(by
    first
    | (dsimp only [set_A, _w65816_lsr] <;>
       repeat' (first | apply ite_bcd_of | apply ite_fst_bcd_of | rfl))
    | rfl), ?_⟩
  case h_2 => exact Or.inl (fetch_sync _ _)
  all_goals exact Or.inr (Or.inl ⟨(by
    first
    | (dsimp only [set_A, _w65816_lsr] <;>
       repeat' (first | apply ite_IR_of | apply ite_fst_IR_of | rfl))
    | rfl), by decide, Eq.refl true⟩)

theorem op_4B_isSome (step : Nat) (c : w65816_t) (pins : Nat) :
    (op_4B step c pins).isSome = (op_4B step (w65816_init false).1 0).isSome := by
  unfold op_4B
  split <;> first | exact Eq.refl true | exact Eq.refl false

theorem op_4B_live (step : Nat) (c : w65816_t) (pins : Nat) (r : w65816_t × Nat)
    (h : op_4B step c pins = some r) :
    r.1.bcd_enabled = c.bcd_enabled ∧
    (sync_out r.2 = true ∨
      (r.1.IR = c.IR ∧ step + 1 < 8 ∧ (op_4B (step + 1) (w65816_init false).1 0).isSome = true) ∨
      ((r.1.IR = (c.IR + 0) % 65536 ∨ r.1.IR = (c.IR + 1) % 65536) ∧ step + 2 < 8 ∧
        (op_4B (step + 1) (w65816_init false).1 0).isSome = true ∧ (op_4B (step + 2) (w65816_init false).1 0).isSome = true)) := by
  unfold op_4B at h
  split at h
  case h_4 => exact Option.noConfusion h
  all_goals cases h
  all_goals refine ⟨(by
    first
    | (dsimp only [set_S] <;>
       repeat' (first | apply ite_bcd_of | apply ite_fst_bcd_of | rfl))
    | rfl), ?_⟩
  case h_3 => exact Or.inl (fetch_sync _ _)
  all_goals exact Or.inr (Or.inl ⟨(by
    first
    | (dsimp only [set_S] <;>
       repeat' (first | apply ite_IR_of | apply ite_fst_IR_of | rfl))
    | rfl), by decide, Eq.refl true⟩)

theorem op_4C_isSome (step : Nat) (c : w65816_t) (pins : Nat) :
    (op_4C step c pins).isSome = (op_4C step (w65816_init false).1 0).isSome := by
  unfold op_4C
  split <;> first | exact Eq.refl true | exact Eq.refl false

theorem op_4C_live (step : Nat) (c : w65816_t) (pins : Nat) (r : w65816_t × Nat)
    (h : op_4C step c pins = some r) :
    r.1.bcd_enabled = c.bcd_enabled ∧
    (sync_out r.2 = true ∨
      (r.1.IR = c.IR ∧ step + 1 < 8 ∧ (op_4C (step + 1) (w65816_init false).1 0).isSome = true) ∨
      ((r.1.IR = (c.IR + 0) % 65536 ∨ r.1.IR = (c.IR + 1) % 65536) ∧ step + 2 < 8 ∧
        (op_4C (step + 1) (w65816_init false).1 0).isSome = true ∧ (op_4C (step + 2) (w65816_init false).1 0).isSome = true)) := by
  unfold op_4C at h
  split at h
  case h_4 => exact Option.noConfusion h
  all_goals cases h
  all_goals refine ⟨(by
    first
    | (dsimp only [] <;>
       repeat' (first | apply ite_bcd_of | apply ite_fst_bcd_of | rfl))
    | rfl), ?_⟩
  case h_3 => exact Or.inl (fetch_sync _ _)
  all_goals exact Or.inr (Or.inl ⟨(by
    first
    | (dsimp only [] <;>
       repeat' (first | apply ite_IR_of | apply ite_fst_IR_of | rfl))
    | rfl), by decide, Eq.refl true⟩)

theorem op_4D_isSome (step : Nat) (c : w65816_t) (pins : Nat) :
    (op_4D step c pins).isSome = (op_4D step (w65816_init false).1 0).isSome := by
  unfold op_4D
  split <;> first | exact Eq.refl true | exact Eq.refl false

theorem op_4D_live (step : Nat) (c : w65816_t) (pins : Nat) (r : w65816_t × Nat)
    (h : op_4D step c pins = some r) :
    r.1.bcd_enabled = c.bcd_enabled ∧
    (sync_out r.2 = true ∨
      (r.1.IR = c.IR ∧ step + 1 < 8 ∧ (op_4D (step + 1) (w65816_init false).1 0).isSome = true) ∨
      ((r.1.IR = (c.IR + 0) % 65536 ∨ r.1.IR = (c.IR + 1) % 65536) ∧ step + 2 < 8 ∧
        (op_4D (step + 1) (w65816_init false).1 0).isSome = true ∧ (op_4D (step + 2) (w65816_init false).1 0).isSome = true)) := by
  unfold op_4D at h
  split at h
  case h_5 => exact Option.noConfusion h
  all_goals cases h
  all_goals refine ⟨(by
    first
    | (dsimp only [set_A, _NZ] <;>
       repeat' (first | apply ite_bcd_of | apply ite_fst_bcd_of | rfl))
    | rfl), ?_⟩
  case h_4 => exact Or.inl (fetch_sync _ _)
  all_goals exact Or.inr (Or.inl ⟨(by
    first
    | (dsimp only [set_A, _NZ] <;>
       repeat' (first | apply ite_IR_of | apply ite_fst_IR_of | rfl))
    | rfl), by decide, Eq.refl true⟩)

theorem op_4E_isSome (step : Nat) (c : w65816_t) (pins : Nat) :
    (op_4E step c pins).isSome = (op_4E step (w65816_init false).1 0).isSome := by
  unfold op_4E
  split <;> first | exact Eq.refl true | exact Eq.refl false

theorem op_4E_live (step : Nat) (c : w65816_t) (pins : Nat) (r : w65816_t × Nat)
    (h : op_4E step c pins = some r) :
    r.1.bcd_enabled = c.bcd_enabled ∧
    (sync_out r.2 = true ∨
      (r.1.IR = c.IR ∧ step + 1 < 8 ∧ (op_4E (step + 1) (w65816_init false).1 0).isSome = true) ∨
      ((r.1.IR = (c.IR + 0) % 65536 ∨ r.1.IR = (c.IR + 1) % 65536) ∧ step + 2 < 8 ∧
        (op_4E (step + 1) (w65816_init false).1 0).isSome = true ∧ (op_4E (step + 2) (w65816_init false).1 0).isSome = true)) := by
  unfold op_4E at h
  split at h
  case h_7 => exact Option.noConfusion h
  all_goals cases h
  all_goals refine ⟨(by
    first
    | (dsimp only [_w65816_lsr] <;>
       repeat' (first | apply ite_bcd_of | apply ite_fst_bcd_of | rfl))
    | rfl), ?_⟩
  case h_6 => exact Or.inl (fetch_sync _ _)
  all_goals exact Or.inr (Or.inl ⟨(by
    first
    | (dsimp only [_w65816_lsr] <;>
       repeat' (first | apply ite_IR_of | apply ite_fst_IR_of | rfl))
    | rfl), by decide, Eq.refl true⟩)

theorem op_4F_isSome (step : Nat) (c : w65816_t) (pins : Nat) :
    (op_4F step c pins).isSome = (op_4F step (w65816_init false).1 0).isSome := by
  unfold op_4F
  split <;> first | exact Eq.refl true | exact Eq.refl false

theorem op_4F_live (step : Nat) (c : w65816_t) (pins : Nat) (r : w65816_t × Nat)
    (h : op_4F step c pins = some r) :
    r.1.bcd_enabled = c.bcd_enabled ∧
    (sync_out r.2 = true ∨
      (r.1.IR = c.IR ∧ step + 1 < 8 ∧ (op_4F (step + 1) (w65816_init false).1 0).isSome = true) ∨
      ((r.1.IR = (c.IR + 0) % 65536 ∨ r.1.IR = (c.IR + 1) % 65536) ∧ step + 2 < 8 ∧
        (op_4F (step + 1) (w65816_init false).1 0).isSome = true ∧ (op_4F (step + 2) (w65816_init false).1 0).isSome = true)) := by
  unfold op_4F at h
  split at h
  case h_4 => exact Option.noConfusion h
  all_goals cases h
  all_goals refine ⟨(by
    first
    | (dsimp only [set_A, _NZ] <;>
       repeat' (first | apply ite_bcd_of | apply ite_fst_bcd_of | rfl))
    | rfl), ?_⟩
  case h_3 => exact Or.inl (fetch_sync _ _)
  all_goals exact Or.inr (Or.inl ⟨(by
    first
    | (dsimp only [set_A, _NZ] <;>
       repeat' (first | apply ite_IR_of | apply ite_fst_IR_of | rfl))
    | rfl), by decide, Eq.refl true⟩)

theorem op_50_isSome (step : Nat) (c : w65816_t) (pins : Nat) :
    (op_50 step c pins).isSome = (op_50 step (w65816_init false).1 0).isSome := by
  unfold op_50
  split <;> first | exact Eq.refl true | exact Eq.refl false

theorem op_50_live (step : Nat) (c : w65816_t) (pins : Nat) (r : w65816_t × Nat)
    (h : op_50 step c pins = some r) :
    r.1.bcd_enabled = c.bcd_enabled ∧
    (sync_out r.2 = true ∨
      (r.1.IR = c.IR ∧ step + 1 < 8 ∧ (op_50 (step + 1) (w65816_init false).1 0).isSome = true) ∨
      ((r.1.IR = (c.IR + 0) % 65536 ∨ r.1.IR = (c.IR + 1) % 65536) ∧ step + 2 < 8 ∧
        (op_50 (step + 1) (w65816_init false).1 0).isSome = true ∧ (op_50 (step + 2) (w65816_init false).1 0).isSome = true)) := by
  unfold op_50 at h
  split at h
  case h_5 => exact Option.noConfusion h
  all_goals cases h
  all_goals refine ⟨(by
    first
    | (dsimp only [] <;>
       repeat' (first | apply ite_bcd_of | apply ite_fst_bcd_of | rfl))
    | rfl), ?_⟩
  case h_4 => exact Or.inl (fetch_sync _ _)
  all_goals exact Or.inr (Or.inl ⟨(by
    first
    | (dsimp only [] <;>
       repeat' (first | apply ite_IR_of | apply ite_fst_IR_of | rfl))
    | rfl), by decide, Eq.refl true⟩)

theorem op_51_isSome (step : Nat) (c : w65816_t) (pins : Nat) :
    (op_51 step c pins).isSome = (op_51 step (w65816_init false).1 0).isSome := by
  unfold op_51
  split <;> first | exact Eq.refl true | exact Eq.refl false

theorem op_51_live (step : Nat) (c : w65816_t) (pins : Nat) (r : w65816_t × Nat)
    (h : op_51 step c pins = some r) :
    r.1.bcd_enabled = c.bcd_enabled ∧
    (sync_out r.2 = true ∨
      (r.1.IR = c.IR ∧ step + 1 < 8 ∧ (op_51 (step + 1) (w65816_init false).1 0).isSome = true) ∨
      ((r.1.IR = (c.IR + 0) % 65536 ∨ r.1.IR = (c.IR + 1) % 65536) ∧ step + 2 < 8 ∧
        (op_51 (step + 1) (w65816_init false).1 0).isSome = true ∧ (op_51 (step + 2) (w65816_init false).1 0).isSome = true)) := by
  unfold op_51 at h
  split at h
  case h_7 => exact Option.noConfusion h
  all_goals cases h
  all_goals refine ⟨(by
    first
    | (dsimp only [set_A, _NZ] <;>
       repeat' (first | apply ite_bcd_of | apply ite_fst_bcd_of | rfl))
    | rfl), ?_⟩
  case h_4 => exact Or.inr (Or.inr ⟨skip_IR _ _, by decide, Eq.refl true, Eq.refl true⟩)
  case h_6 => exact Or.inl (fetch_sync _ _)
  all_goals exact Or.inr (Or.inl ⟨(by
    first
    | (dsimp only [set_A, _NZ] <;>
       repeat' (first | apply ite_IR_of | apply ite_fst_IR_of | rfl))
    | rfl), by decide, Eq.refl true⟩)

theorem op_52_isSome (step : Nat) (c : w65816_t) (pins : Nat) :
    (op_52 step c pins).isSome = (op_52 step (w65816_init false).1 0).isSome := by
  unfold op_52
  split <;> first | exact Eq.refl true | exact Eq.refl false

theorem op_52_live (step : Nat) (c : w65816_t) (pins : Nat) (r : w65816_t × Nat)
    (h : op_52 step c pins = some r) :
    r.1.bcd_enabled = c.bcd_enabled ∧
    (sync_out r.2 = true ∨
      (r.1.IR = c.IR ∧ step + 1 < 8 ∧ (op_52 (step + 1) (w65816_init false).1 0).isSome = true) ∨
      ((r.1.IR = (c.IR + 0) % 65536 ∨ r.1.IR = (c.IR + 1) % 65536) ∧ step + 2 < 8 ∧
        (op_52 (step + 1) (w65816_init false).1 0).isSome = true ∧ (op_52 (step + 2) (w65816_init false).1 0).isSome = true)) := by
  unfold op_52 at h
  split at h
  case h_4 => exact Option.noConfusion h
  all_goals cases h
  all_goals refine ⟨(by
    first
    | (dsimp only [set_A, _NZ] <;>
       repeat' (first | apply ite_bcd_of | apply ite_fst_bcd_of | rfl))
    | rfl), ?_⟩
  case h_3 => exact Or.inl (fetch_sync _ _)
  all_goals exact Or.inr (Or.inl ⟨(by
    first
    | (dsimp only [set_A, _NZ] <;>
       repeat' (first | apply ite_IR_of | apply ite_fst_IR_of | rfl))
    | rfl), by decide, Eq.refl true⟩)

theorem op_53_isSome (step : Nat) (c : w65816_t) (pins : Nat) :
    (op_53 step c pins).isSome = (op_53 step (w65816_init false).1 0).isSome := by
  unfold op_53
  split <;> first | exact Eq.refl true | exact Eq.refl false

theorem op_53_live (step : Nat) (c : w65816_t) (pins : Nat) (r : w65816_t × Nat)
    (h : op_53 step c pins = some r) :
    r.1.bcd_enabled = c.bcd_enabled ∧
    (sync_out r.2 = true ∨
      (r.1.IR = c.IR ∧ step + 1 < 8 ∧ (op_53 (step + 1) (w65816_init false).1 0).isSome = true) ∨
      ((r.1.IR = (c.IR + 0) % 65536 ∨ r.1.IR = (c.IR + 1) % 65536) ∧ step + 2 < 8 ∧
        (op_53 (step + 1) (w65816_init false).1 0).isSome = true ∧ (op_53 (step + 2) (w65816_init false).1 0).isSome = true)) := by
  unfold op_53 at h
  split at h
  case h_4 => exact Option.noConfusion h
  all_goals cases h
  all_goals refine ⟨(by
    first
    | (dsimp only [set_A, _NZ] <;>
       repeat' (first | apply ite_bcd_of | apply ite_fst_bcd_of | rfl))
    | rfl), ?_⟩
  case h_3 => exact Or.inl (fetch_sync _ _)
  all_goals exact Or.inr (Or.inl ⟨(by
    first
    | (dsimp only [set_A, _NZ] <;>
       repeat' (first | apply ite_IR_of | apply ite_fst_IR_of | rfl))
    | rfl), by decide, Eq.refl true⟩)

theorem op_54_isSome (step : Nat) (c : w65816_t) (pins : Nat) :
    (op_54 step c pins).isSome = (op_54 step (w65816_init false).1 0).isSome := by
  unfold op_54
  split <;> first | exact Eq.refl true | exact Eq.refl false

theorem op_54_live (step : Nat) (c : w65816_t) (pins : Nat) (r : w65816_t × Nat)
    (h : op_54 step c pins = some r) :
    r.1.bcd_enabled = c.bcd_enabled ∧
    (sync_out r.2 = true ∨
      (r.1.IR = c.IR ∧ step + 1 < 8 ∧ (op_54 (step + 1) (w65816_init false).1 0).isSome = true) ∨
      ((r.1.IR = (c.IR + 0) % 65536 ∨ r.1.IR = (c.IR + 1) % 65536) ∧ step + 2 < 8 ∧
        (op_54 (step + 1) (w65816_init false).1 0).isSome = true ∧ (op_54 (step + 2) (w65816_init false).1 0).isSome = true)) := by
  unfold op_54 at h
  split at h
  case h_8 => exact Option.noConfusion h
  all_goals cases h
  all_goals refine ⟨(by
    first
    | (dsimp only [] <;>
       repeat' (first | apply ite_bcd_of | apply ite_fst_bcd_of | rfl))
    | rfl), ?_⟩
  case h_7 => exact Or.inl (fetch_sync _ _)
  all_goals exact Or.inr (Or.inl ⟨(by
    first
    | (dsimp only [] <;>
       repeat' (first | apply ite_IR_of | apply ite_fst_IR_of | rfl))
    | rfl), by decide, Eq.refl true⟩)

theorem op_55_isSome (step : Nat) (c : w65816_t) (pins : Nat) :
    (op_55 step c pins).isSome = (op_55 step (w65816_init false).1 0).isSome := by
  unfold op_55
  split <;> first | exact Eq.refl true | exact Eq.refl false

theorem op_55_live (step : Nat) (c : w65816_t) (pins : Nat) (r : w65816_t × Nat)
    (h : op_55 step c pins = some r) :
    r.1.bcd_enabled = c.bcd_enabled ∧
    (sync_out r.2 = true ∨
      (r.1.IR = c.IR ∧ step + 1 < 8 ∧ (op_55 (step + 1) (w65816_init false).1 0).isSome = true) ∨
      ((r.1.IR = (c.IR + 0) % 65536 ∨ r.1.IR = (c.IR + 1) % 65536) ∧ step + 2 < 8 ∧
        (op_55 (step + 1) (w65816_init false).1 0).isSome = true ∧ (op_55 (step + 2) (w65816_init false).1 0).isSome = true)) := by
  unfold op_55 at h
  split at h
  case h_5 => exact Option.noConfusion h
  all_goals cases h
  all_goals refine ⟨(by
    first
    | (dsimp only [set_A, _NZ] <;>
       repeat' (first | apply ite_bcd_of | apply ite_fst_bcd_of | rfl))
    | rfl), ?_⟩
  case h_4 => exact Or.inl (fetch_sync _ _)
  all_goals exact Or.inr (Or.inl ⟨(by
    first
    | (dsimp only [set_A, _NZ] <;>
       repeat' (first | apply ite_IR_of | apply ite_fst_IR_of | rfl))
    | rfl), by decide, Eq.refl true⟩)

theorem op_56_isSome (step : Nat) (c : w65816_t) (pins : Nat) :
    (op_56 step c pins).isSome = (op_56 step (w65816_init false).1 0).isSome := by
  unfold op_56
  split <;> first | exact Eq.refl true | exact Eq.refl false

theorem op_56_live (step : Nat) (c : w65816_t) (pins : Nat) (r : w65816_t × Nat)
    (h : op_56 step c pins = some r) :
    r.1.bcd_enabled = c.bcd_enabled ∧
    (sync_out r.2 = true ∨
      (r.1.IR = c.IR ∧ step + 1 < 8 ∧ (op_56 (step + 1) (w65816_init false).1 0).isSome = true) ∨
      ((r.1.IR = (c.IR + 0) % 65536 ∨ r.1.IR = (c.IR + 1) % 65536) ∧ step + 2 < 8 ∧
        (op_56 (step + 1) (w65816_init false).1 0).isSome = true ∧ (op_56 (step + 2) (w65816_init false).1 0).isSome = true)) := by
  unfold op_56 at h
  split at h
  case h_7 => exact Option.noConfusion h
  all_goals cases h
  all_goals refine ⟨(by
    first
    | (dsimp only [_w65816_lsr] <;>
       repeat' (first | apply ite_bcd_of | apply ite_fst_bcd_of | rfl))
    | rfl), ?_⟩
  case h_6 => exact Or.inl (fetch_sync _ _)
  all_goals exact Or.inr (Or.inl ⟨(by
    first
    | (dsimp only [_w65816_lsr] <;>
       repeat' (first | apply ite_IR_of | apply ite_fst_IR_of | rfl))
    | rfl), by decide, Eq.refl true⟩)

theorem op_57_isSome (step : Nat) (c : w65816_t) (pins : Nat) :
    (op_57 step c pins).isSome = (op_57 step (w65816_init false).1 0).isSome := by
  unfold op_57
  split <;> first | exact Eq.refl true | exact Eq.refl false

theorem op_57_live (step : Nat) (c : w65816_t) (pins : Nat) (r : w65816_t × Nat)
    (h : op_57 step c pins = some r) :
    r.1.bcd_enabled = c.bcd_enabled ∧
    (sync_out r.2 = true ∨
      (r.1.IR = c.IR ∧ step + 1 < 8 ∧ (op_57 (step + 1) (w65816_init false).1 0).isSome = true) ∨
      ((r.1.IR = (c.IR + 0) % 65536 ∨ r.1.IR = (c.IR + 1) % 65536) ∧ step + 2 < 8 ∧
        (op_57 (step + 1) (w65816_init false).1 0).isSome = true ∧ (op_57 (step + 2) (w65816_init false).1 0).isSome = true)) := by
  unfold op_57 at h
  split at h
  case h_4 => exact Option.noConfusion h
  all_goals cases h
  all_goals refine ⟨(by
    first
    | (dsimp only [set_A, _NZ] <;>
       repeat' (first | apply ite_bcd_of | apply ite_fst_bcd_of | rfl))
    | rfl), ?_⟩
  case h_3 => exact Or.inl (fetch_sync _ _)
  all_goals exact Or.inr (Or.inl ⟨(by
    first
    | (dsimp only [set_A, _NZ] <;>
       repeat' (first | apply ite_IR_of | apply ite_fst_IR_of | rfl))
    | rfl), by decide, Eq.refl true⟩)

theorem op_58_isSome (step : Nat) (c : w65816_t) (pins : Nat) :
    (op_58 step c pins).isSome = (op_58 step (w65816_init false).1 0).isSome := by
  unfold op_58
  split <;> first | exact Eq.refl true | exact Eq.refl false

theorem op_58_live (step : Nat) (c : w65816_t) (pins : Nat) (r : w65816_t × Nat)
    (h : op_58 step c pins = some r) :
    r.1.bcd_enabled = c.bcd_enabled ∧
    (sync_out r.2 = true ∨
      (r.1.IR = c.IR ∧ step + 1 < 8 ∧ (op_58 (step + 1) (w65816_init false).1 0).isSome = true) ∨
      ((r.1.IR = (c.IR + 0) % 65536 ∨ r.1.IR = (c.IR + 1) % 65536) ∧ step + 2 < 8 ∧
        (op_58 (step + 1) (w65816_init false).1 0).isSome = true ∧ (op_58 (step + 2) (w65816_init false).1 0).isSome = true)) := by
  unfold op_58 at h
  split at h
  case h_3 => exact Option.noConfusion h
  all_goals cases h
  all_goals refine ⟨(by
    first
    | (dsimp only [] <;>
       repeat' (first | apply ite_bcd_of | apply ite_fst_bcd_of | rfl))
    | rfl), ?_⟩
  case h_2 => exact Or.inl (fetch_sync _ _)
  all_goals exact Or.inr (Or.inl ⟨(by
    first
    | (dsimp only [] <;>
       repeat' (first | apply ite_IR_of | apply ite_fst_IR_of | rfl))
    | rfl), by decide, Eq.refl true⟩)

theorem op_59_isSome (step : Nat) (c : w65816_t) (pins : Nat) :
    (op_59 step c pins).isSome = (op_59 step (w65816_init false).1 0).isSome := by
  unfold op_59
  split <;> first | exact Eq.refl true | exact Eq.refl false

theorem op_59_live (step : Nat) (c : w65816_t) (pins : Nat) (r : w65816_t × Nat)
    (h : op_59 step c pins = some r) :
    r.1.bcd_enabled = c.bcd_enabled ∧
    (sync_out r.2 = true ∨
      (r.1.IR = c.IR ∧ step + 1 < 8 ∧ (op_59 (step + 1) (w65816_init false).1 0).isSome = true) ∨
      ((r.1.IR = (c.IR + 0) % 65536 ∨ r.1.IR = (c.IR + 1) % 65536) ∧ step + 2 < 8 ∧
        (op_59 (step + 1) (w65816_init false).1 0).isSome = true ∧ (op_59 (step + 2) (w65816_init false).1 0).isSome = true)) := by
  unfold op_59 at h
  split at h
  case h_6 => exact Option.noConfusion h
  all_goals cases h
  all_goals refine ⟨(by
    first
    | (dsimp only [set_A, _NZ] <;>
       repeat' (first | apply ite_bcd_of | apply ite_fst_bcd_of | rfl))
    | rfl), ?_⟩
  case h_3 => exact Or.inr (Or.inr ⟨skip_IR _ _, by decide, Eq.refl true, Eq.refl true⟩)
  case h_5 => exact Or.inl (fetch_sync _ _)
  all_goals exact Or.inr (Or.inl ⟨(by
    first
    | (dsimp only [set_A, _NZ] <;>
       repeat' (first | apply ite_IR_of | apply ite_fst_IR_of | rfl))
    | rfl), by decide, Eq.refl true⟩)

theorem op_5A_isSome (step : Nat) (c : w65816_t) (pins : Nat) :
    (op_5A step c pins).isSome = (op_5A step (w65816_init false).1 0).isSome := by
  unfold op_5A
  split <;> first | exact Eq.refl true | exact Eq.refl false

theorem op_5A_live (step : Nat) (c : w65816_t) (pins : Nat) (r : w65816_t × Nat)
    (h : op_5A step c pins = some r) :
    r.1.bcd_enabled = c.bcd_enabled ∧
    (sync_out r.2 = true ∨
      (r.1.IR = c.IR ∧ step + 1 < 8 ∧ (op_5A (step + 1) (w65816_init false).1 0).isSome = true) ∨
      ((r.1.IR = (c.IR + 0) % 65536 ∨ r.1.IR = (c.IR + 1) % 65536) ∧ step + 2 < 8 ∧
        (op_5A (step + 1) (w65816_init false).1 0).isSome = true ∧ (op_5A (step + 2) (w65816_init false).1 0).isSome = true)) := by
  unfold op_5A at h
  split at h
  case h_4 => exact Option.noConfusion h
  all_goals cases h
  all_goals refine ⟨(by
    first
    | (dsimp only [set_S] <;>
       repeat' (first | apply ite_bcd_of | apply ite_fst_bcd_of | rfl))
    | rfl), ?_⟩
  case h_3 => exact Or.inl (fetch_sync _ _)
  all_goals exact Or.inr (Or.inl ⟨(by
    first
    | (dsimp only [set_S] <;>
       repeat' (first | apply ite_IR_of | apply ite_fst_IR_of | rfl))
    | rfl), by decide, Eq.refl true⟩)

theorem op_5B_isSome (step : Nat) (c : w65816_t) (pins : Nat) :
    (op_5B step c pins).isSome = (op_5B step (w65816_init false).1 0).isSome := by
  unfold op_5B
  split <;> first | exact Eq.refl true | exact Eq.refl false

theorem op_5B_live (step : Nat) (c : w65816_t) (pins : Nat) (r : w65816_t × Nat)
    (h : op_5B step c pins = some r) :
    r.1.bcd_enabled = c.bcd_enabled ∧
    (sync_out r.2 = true ∨
      (r.1.IR = c.IR ∧ step + 1 < 8 ∧ (op_5B (step + 1) (w65816_init false).1 0).isSome = true) ∨
      ((r.1.IR = (c.IR + 0) % 65536 ∨ r.1.IR = (c.IR + 1) % 65536) ∧ step + 2 < 8 ∧
        (op_5B (step + 1) (w65816_init false).1 0).isSome = true ∧ (op_5B (step + 2) (w65816_init false).1 0).isSome = true)) := by
  unfold op_5B at h
  split at h
  case h_3 => exact Option.noConfusion h
  all_goals cases h
  all_goals refine ⟨(by
    first
    | (dsimp only [_NZ] <;>
       repeat' (first | apply ite_bcd_of | apply ite_fst_bcd_of | rfl))
    | rfl), ?_⟩
  case h_2 => exact Or.inl (fetch_sync _ _)
  all_goals exact Or.inr (Or.inl ⟨(by
    first
    | (dsimp only [_NZ] <;>
       repeat' (first | apply ite_IR_of | apply ite_fst_IR_of | rfl))
    | rfl), by decide, Eq.refl true⟩)

theorem op_5C_isSome (step : Nat) (c : w65816_t) (pins : Nat) :
    (op_5C step c pins).isSome = (op_5C step (w65816_init false).1 0).isSome := by
  unfold op_5C
  split <;> first | exact Eq.refl true | exact Eq.refl false

theorem op_5C_live (step : Nat) (c : w65816_t) (pins : Nat) (r : w65816_t × Nat)
    (h : op_5C step c pins = some r) :
    r.1.bcd_enabled = c.bcd_enabled ∧
    (sync_out r.2 = true ∨
      (r.1.IR = c.IR ∧ step + 1 < 8 ∧ (op_5C (step + 1) (w65816_init false).1 0).isSome = true) ∨
      ((r.1.IR = (c.IR + 0) % 65536 ∨ r.1.IR = (c.IR + 1) % 65536) ∧ step + 2 < 8 ∧
        (op_5C (step + 1) (w65816_init false).1 0).isSome = true ∧ (op_5C (step + 2) (w65816_init false).1 0).isSome = true)) := by
  unfold op_5C at h
  split at h
  case h_5 => exact Option.noConfusion h
  all_goals cases h
  all_goals refine ⟨(by
    first
    | (dsimp only [] <;>
       repeat' (first | apply ite_bcd_of | apply ite_fst_bcd_of | rfl))
    | rfl), ?_⟩
  case h_4 => exact Or.inl (fetch_sync _ _)
  all_goals exact Or.inr (Or.inl ⟨(by
    first
    | (dsimp only [] <;>
       repeat' (first | apply ite_IR_of | apply ite_fst_IR_of | rfl))
    | rfl), by decide, Eq.refl true⟩)

theorem op_5D_isSome (step : Nat) (c : w65816_t) (pins : Nat) :
    (op_5D step c pins).isSome = (op_5D step (w65816_init false).1 0).isSome := by
  unfold op_5D
  split <;> first | exact Eq.refl true | exact Eq.refl false

theorem op_5D_live (step : Nat) (c : w65816_t) (pins : Nat) (r : w65816_t × Nat)
    (h : op_5D step c pins = some r) :
    r.1.bcd_enabled = c.bcd_enabled ∧
    (sync_out r.2 = true ∨
      (r.1.IR = c.IR ∧ step + 1 < 8 ∧ (op_5D (step + 1) (w65816_init false).1 0).isSome = true) ∨
      ((r.1.IR = (c.IR + 0) % 65536 ∨ r.1.IR = (c.IR + 1) % 65536) ∧ step + 2 < 8 ∧
        (op_5D (step + 1) (w65816_init false).1 0).isSome = true ∧ (op_5D (step + 2) (w65816_init false).1 0).isSome = true)) := by
  unfold op_5D at h
  split at h
  case h_6 => exact Option.noConfusion h
  all_goals cases h
  all_goals refine ⟨(by
    first
    | (dsimp only [set_A, _NZ] <;>
       repeat' (first | apply ite_bcd_of | apply ite_fst_bcd_of | rfl))
    | rfl), ?_⟩
  case h_3 => exact Or.inr (Or.inr ⟨skip_IR _ _, by decide, Eq.refl true, Eq.refl true⟩)
  case h_5 => exact Or.inl (fetch_sync _ _)
  all_goals exact Or.inr (Or.inl ⟨(by
    first
    | (dsimp only [set_A, _NZ] <;>
       repeat' (first | apply ite_IR_of | apply ite_fst_IR_of | rfl))
    | rfl), by decide, Eq.refl true⟩)

theorem op_5E_isSome (step : Nat) (c : w65816_t) (pins : Nat) :
    (op_5E step c pins).isSome = (op_5E step (w65816_init false).1 0).isSome := by
  unfold op_5E
  split <;> first | exact Eq.refl true | exact Eq.refl false

theorem op_5E_live (step : Nat) (c : w65816_t) (pins : Nat) (r : w65816_t × Nat)
    (h : op_5E step c pins = some r) :
    r.1.bcd_enabled = c.bcd_enabled ∧
    (sync_out r.2 = true ∨
      (r.1.IR = c.IR ∧ step + 1 < 8 ∧ (op_5E (step + 1) (w65816_init false).1 0).isSome = true) ∨
      ((r.1.IR = (c.IR + 0) % 65536 ∨ r.1.IR = (c.IR + 1) % 65536) ∧ step + 2 < 8 ∧
        (op_5E (step + 1) (w65816_init false).1 0).isSome = true ∧ (op_5E (step + 2) (w65816_init false).1 0).isSome = true)) := by
  unfold op_5E at h
  split at h
  case h_8 => exact Option.noConfusion h
  all_goals cases h
  all_goals refine ⟨(by
    first
    | (dsimp only [_w65816_lsr] <;>
       repeat' (first | apply ite_bcd_of | apply ite_fst_bcd_of | rfl))
    | rfl), ?_⟩
  case h_7 => exact Or.inl (fetch_sync _ _)
  all_goals exact Or.inr (Or.inl ⟨(by
    first
    | (dsimp only [_w65816_lsr] <;>
       repeat' (first | apply ite_IR_of | apply ite_fst_IR_of | rfl))
    | rfl), by decide, Eq.refl true⟩)

theorem op_5F_isSome (step : Nat) (c : w65816_t) (pins : Nat) :
    (op_5F step c pins).isSome = (op_5F step (w65816_init false).1 0).isSome := by
  unfold op_5F
  split <;> first | exact Eq.refl true | exact Eq.refl false

theorem op_5F_live (step : Nat) (c : w65816_t) (pins : Nat) (r : w65816_t × Nat)
    (h : op_5F step c pins = some r) :
    r.1.bcd_enabled = c.bcd_enabled ∧
    (sync_out r.2 = true ∨
      (r.1.IR = c.IR ∧ step + 1 < 8 ∧ (op_5F (step + 1) (w65816_init false).1 0).isSome = true) ∨
      ((r.1.IR = (c.IR + 0) % 65536 ∨ r.1.IR = (c.IR + 1) % 65536) ∧ step + 2 < 8 ∧
        (op_5F (step + 1) (w65816_init false).1 0).isSome = true ∧ (op_5F (step + 2) (w65816_init false).1 0).isSome = true)) := by
  unfold op_5F at h
  split at h
  case h_4 => exact Option.noConfusion h
  all_goals cases h
  all_goals refine ⟨(by
    first
    | (dsimp only [set_A, _NZ] <;>
       repeat' (first | apply ite_bcd_of | apply ite_fst_bcd_of | rfl))
    | rfl), ?_⟩
  case h_3 => exact Or.inl (fetch_sync _ _)
  all_goals exact Or.inr (Or.inl ⟨(by
    first
    | (dsimp only [set_A, _NZ] <;>
       repeat' (first | apply ite_IR_of | apply ite_fst_IR_of | rfl))
    | rfl), by decide, Eq.refl true⟩)

theorem op_60_isSome (step : Nat) (c : w65816_t) (pins : Nat) :
    (op_60 step c pins).isSome = (op_60 step (w65816_init false).1 0).isSome := by
  unfold op_60
  split <;> first | exact Eq.refl true | exact Eq.refl false

theorem op_60_live (step : Nat) (c : w65816_t) (pins : Nat) (r : w65816_t × Nat)
    (h : op_60 step c pins = some r) :
    r.1.bcd_enabled = c.bcd_enabled ∧
    (sync_out r.2 = true ∨
      (r.1.IR = c.IR ∧ step + 1 < 8 ∧ (op_60 (step + 1) (w65816_init false).1 0).isSome = true) ∨
      ((r.1.IR = (c.IR + 0) % 65536 ∨ r.1.IR = (c.IR + 1) % 65536) ∧ step + 2 < 8 ∧
        (op_60 (step + 1) (w65816_init false).1 0).isSome = true ∧ (op_60 (step + 2) (w65816_init false).1 0).isSome = true)) := by
  unfold op_60 at h
  split at h
  case h_7 => exact Option.noConfusion h
  all_goals cases h
  all_goals refine ⟨(by
    first
    | (dsimp only [set_S] <;>
       repeat' (first | apply ite_bcd_of | apply ite_fst_bcd_of | rfl))
    | rfl), ?_⟩
  case h_6 => exact Or.inl (fetch_sync _ _)
  all_goals exact Or.inr (Or.inl ⟨(by
    first
    | (dsimp only [set_S] <;>
       repeat' (first | apply ite_IR_of | apply ite_fst_IR_of | rfl))
    | rfl), by decide, Eq.refl true⟩)

theorem op_61_isSome (step : Nat) (c : w65816_t) (pins : Nat) :
    (op_61 step c pins).isSome = (op_61 step (w65816_init false).1 0).isSome := by
  unfold op_61
  split <;> first | exact Eq.refl true | exact Eq.refl false

theorem op_61_live (step : Nat) (c : w65816_t) (pins : Nat) (r : w65816_t × Nat)
    (h : op_61 step c pins = some r) :
    r.1.bcd_enabled = c.bcd_enabled ∧
    (sync_out r.2 = true ∨
      (r.1.IR = c.IR ∧ step + 1 < 8 ∧ (op_61 (step + 1) (w65816_init false).1 0).isSome = true) ∨
      ((r.1.IR = (c.IR + 0) % 65536 ∨ r.1.IR = (c.IR + 1) % 65536) ∧ step + 2 < 8 ∧
        (op_61 (step + 1) (w65816_init false).1 0).isSome = true ∧ (op_61 (step + 2) (w65816_init false).1 0).isSome = true)) := by
  unfold op_61 at h
  split at h
  case h_7 => exact Option.noConfusion h
  all_goals cases h
  all_goals refine ⟨(by
    first
    | (dsimp only [] <;>
       repeat' (first | apply ite_bcd_of | apply ite_fst_bcd_of | apply adc_bcd_of | rfl))
    | rfl), ?_⟩
  case h_6 => exact Or.inl (fetch_sync _ _)
  all_goals exact Or.inr (Or.inl ⟨(by
    first
    | (dsimp only [] <;>
       repeat' (first | apply ite_IR_of | apply ite_fst_IR_of | apply adc_IR_of | rfl))
    | rfl), by decide, Eq.refl true⟩)

theorem op_62_isSome (step : Nat) (c : w65816_t) (pins : Nat) :
    (op_62 step c pins).isSome = (op_62 step (w65816_init false).1 0).isSome := by
  unfold op_62
  split <;> first | exact Eq.refl true | exact Eq.refl false

theorem op_62_live (step : Nat) (c : w65816_t) (pins : Nat) (r : w65816_t × Nat)
    (h : op_62 step c pins = some r) :
    r.1.bcd_enabled = c.bcd_enabled ∧
    (sync_out r.2 = true ∨
      (r.1.IR = c.IR ∧ step + 1 < 8 ∧ (op_62 (step + 1) (w65816_init false).1 0).isSome = true) ∨
      ((r.1.IR = (c.IR + 0) % 65536 ∨ r.1.IR = (c.IR + 1) % 65536) ∧ step + 2 < 8 ∧
        (op_62 (step + 1) (w65816_init false).1 0).isSome = true ∧ (op_62 (step + 2) (w65816_init false).1 0).isSome = true)) := by
  unfold op_62 at h
  split at h
  case h_4 => exact Option.noConfusion h
  all_goals cases h
  all_goals refine ⟨(by
    first
    | (dsimp only [] <;>
       repeat' (first | apply ite_bcd_of | apply ite_fst_bcd_of | rfl))
    | rfl), ?_⟩
  case h_3 => exact Or.inl (fetch_sync _ _)
  all_goals exact Or.inr (Or.inl ⟨(by
    first
    | (dsimp only [] <;>
       repeat' (first | apply ite_IR_of | apply ite_fst_IR_of | rfl))
    | rfl), by decide, Eq.refl true⟩)

theorem op_63_isSome (step : Nat) (c : w65816_t) (pins : Nat) :
    (op_63 step c pins).isSome = (op_63 step (w65816_init false).1 0).isSome := by
  unfold op_63
  split <;> first | exact Eq.refl true | exact Eq.refl false

theorem op_63_live (step : Nat) (c : w65816_t) (pins : Nat) (r : w65816_t × Nat)
    (h : op_63 step c pins = some r) :
    r.1.bcd_enabled = c.bcd_enabled ∧
    (sync_out r.2 = true ∨
      (r.1.IR = c.IR ∧ step + 1 < 8 ∧ (op_63 (step + 1) (w65816_init false).1 0).isSome = true) ∨
      ((r.1.IR = (c.IR + 0) % 65536 ∨ r.1.IR = (c.IR + 1) % 65536) ∧ step + 2 < 8 ∧
        (op_63 (step + 1) (w65816_init false).1 0).isSome = true ∧ (op_63 (step + 2) (w65816_init false).1 0).isSome = true)) := by
  unfold op_63 at h
  split at h
  case h_4 => exact Option.noConfusion h
  all_goals cases h
  all_goals refine ⟨(by
    first
    | (dsimp only [] <;>
       repeat' (first | apply ite_bcd_of | apply ite_fst_bcd_of | apply adc_bcd_of | rfl))
    | rfl), ?_⟩
  case h_3 => exact Or.inl (fetch_sync _ _)
  all_goals exact Or.inr (Or.inl ⟨(by
    first
    | (dsimp only [] <;>
       repeat' (first | apply ite_IR_of | apply ite_fst_IR_of | apply adc_IR_of | rfl))
    | rfl), by decide, Eq.refl true⟩)

theorem op_64_isSome (step : Nat) (c : w65816_t) (pins : Nat) :
    (op_64 step c pins).isSome = (op_64 step (w65816_init false).1 0).isSome := by
  unfold op_64
  split <;> first | exact Eq.refl true | exact Eq.refl false

theorem op_64_live (step : Nat) (c : w65816_t) (pins : Nat) (r : w65816_t × Nat)
    (h : op_64 step c pins = some r) :
    r.1.bcd_enabled = c.bcd_enabled ∧
    (sync_out r.2 = true ∨
      (r.1.IR = c.IR ∧ step + 1 < 8 ∧ (op_64 (step + 1) (w65816_init false).1 0).isSome = true) ∨
      ((r.1.IR = (c.IR + 0) % 65536 ∨ r.1.IR = (c.IR + 1) % 65536) ∧ step + 2 < 8 ∧
        (op_64 (step + 1) (w65816_init false).1 0).isSome = true ∧ (op_64 (step + 2) (w65816_init false).1 0).isSome = true)) := by
  unfold op_64 at h
  split at h
  case h_5 => exact Option.noConfusion h
  all_goals cases h
  all_goals refine ⟨(by
    first
    | (dsimp only [] <;>
       repeat' (first | apply ite_bcd_of | apply ite_fst_bcd_of | rfl))
    | rfl), ?_⟩
  case h_4 => exact Or.inl (fetch_sync _ _)
  all_goals exact Or.inr (Or.inl ⟨(by
    first
    | (dsimp only [] <;>
       repeat' (first | apply ite_IR_of | apply ite_fst_IR_of | rfl))
    | rfl), by decide, Eq.refl true⟩)

theorem op_65_isSome (step : Nat) (c : w65816_t) (pins : Nat) :
    (op_65 step c pins).isSome = (op_65 step (w65816_init false).1 0).isSome := by
  unfold op_65
  split <;> first | exact Eq.refl true | exact Eq.refl false

theorem op_65_live (step : Nat) (c : w65816_t) (pins : Nat) (r : w65816_t × Nat)
    (h : op_65 step c pins = some r) :
    r.1.bcd_enabled = c.bcd_enabled ∧
    (sync_out r.2 = true ∨
      (r.1.IR = c.IR ∧ step + 1 < 8 ∧ (op_65 (step + 1) (w65816_init false).1 0).isSome = true) ∨
      ((r.1.IR = (c.IR + 0) % 65536 ∨ r.1.IR = (c.IR + 1) % 65536) ∧ step + 2 < 8 ∧
        (op_65 (step + 1) (w65816_init false).1 0).isSome = true ∧ (op_65 (step + 2) (w65816_init false).1 0).isSome = true)) := by
  unfold op_65 at h
  split at h
  case h_4 => exact Option.noConfusion h
  all_goals cases h
  all_goals refine ⟨(by
    first
    | (dsimp only [] <;>
       repeat' (first | apply ite_bcd_of | apply ite_fst_bcd_of | apply adc_bcd_of | rfl))
    | rfl), ?_⟩
  case h_3 => exact Or.inl (fetch_sync _ _)
  all_goals exact Or.inr (Or.inl ⟨(by
    first
    | (dsimp only [] <;>
       repeat' (first | apply ite_IR_of | apply ite_fst_IR_of | apply adc_IR_of | rfl))
    | rfl), by decide, Eq.refl true⟩)

theorem op_66_isSome (step : Nat) (c : w65816_t) (pins : Nat) :
    (op_66 step c pins).isSome = (op_66 step (w65816_init false).1 0).isSome := by
  unfold op_66
  split <;> first | exact Eq.refl true | exact Eq.refl false

theorem op_66_live (step : Nat) (c : w65816_t) (pins : Nat) (r : w65816_t × Nat)
    (h : op_66 step c pins = some r) :
    r.1.bcd_enabled = c.bcd_enabled ∧
    (sync_out r.2 = true ∨
      (r.1.IR = c.IR ∧ step + 1 < 8 ∧ (op_66 (step + 1) (w65816_init false).1 0).isSome = true) ∨
      ((r.1.IR = (c.IR + 0) % 65536 ∨ r.1.IR = (c.IR + 1) % 65536) ∧ step + 2 < 8 ∧
        (op_66 (step + 1) (w65816_init false).1 0).isSome = true ∧ (op_66 (step + 2) (w65816_init false).1 0).isSome = true)) := by
  unfold op_66 at h
  split at h
  case h_6 => exact Option.noConfusion h
  all_goals cases h
  all_goals refine ⟨(by
    first
    | (dsimp only [] <;>
       repeat' (first | apply ite_bcd_of | apply ite_fst_bcd_of | apply ror_bcd_of | rfl))
    | rfl), ?_⟩
  case h_5 => exact Or.inl (fetch_sync _ _)
  all_goals exact Or.inr (Or.inl ⟨(by
    first
    | (dsimp only [] <;>
       repeat' (first | apply ite_IR_of | apply ite_fst_IR_of | apply ror_IR_of | rfl))
    | rfl), by decide, Eq.refl true⟩)

theorem op_67_isSome (step : Nat) (c : w65816_t) (pins : Nat) :
    (op_67 step c pins).isSome = (op_67 step (w65816_init false).1 0).isSome := by
  unfold op_67
  split <;> first | exact Eq.refl true | exact Eq.refl false

theorem op_67_live (step : Nat) (c : w65816_t) (pins : Nat) (r : w65816_t × Nat)
    (h : op_67 step c pins = some r) :
    r.1.bcd_enabled = c.bcd_enabled ∧
    (sync_out r.2 = true ∨
      (r.1.IR = c.IR ∧ step + 1 < 8 ∧ (op_67 (step + 1) (w65816_init false).1 0).isSome = true) ∨
      ((r.1.IR = (c.IR + 0) % 65536 ∨ r.1.IR = (c.IR + 1) % 65536) ∧ step + 2 < 8 ∧
        (op_67 (step + 1) (w65816_init false).1 0).isSome = true ∧ (op_67 (step + 2) (w65816_init false).1 0).isSome = true)) := by
  unfold op_67 at h
  split at h
  case h_4 => exact Option.noConfusion h
  all_goals cases h
  all_goals refine ⟨(by
    first
    | (dsimp only [] <;>
       repeat' (first | apply ite_bcd_of | apply ite_fst_bcd_of | apply adc_bcd_of | rfl))
    | rfl), ?_⟩
  case h_3 => exact Or.inl (fetch_sync _ _)
  all_goals exact Or.inr (Or.inl ⟨(by
    first
    | (dsimp only [] <;>
       repeat' (first | apply ite_IR_of | apply ite_fst_IR_of | apply adc_IR_of | rfl))
    | rfl), by decide, Eq.refl true⟩)

theorem op_68_isSome (step : Nat) (c : w65816_t) (pins : Nat) :
    (op_68 step c pins).isSome = (op_68 step (w65816_init false).1 0).isSome := by
  unfold op_68
  split <;> first | exact Eq.refl true | exact Eq.refl false

theorem op_68_live (step : Nat) (c : w65816_t) (pins : Nat) (r : w65816_t × Nat)
    (h : op_68 step c pins = some r) :
    r.1.bcd_enabled = c.bcd_enabled ∧
    (sync_out r.2 = true ∨
      (r.1.IR = c.IR ∧ step + 1 < 8 ∧ (op_68 (step + 1) (w65816_init false).1 0).isSome = true) ∨
      ((r.1.IR = (c.IR + 0) % 65536 ∨ r.1.IR = (c.IR + 1) % 65536) ∧ step + 2 < 8 ∧
        (op_68 (step + 1) (w65816_init false).1 0).isSome = true ∧ (op_68 (step + 2) (w65816_init false).1 0).isSome = true)) := by
  unfold op_68 at h
  split at h
  case h_5 => exact Option.noConfusion h
  all_goals cases h
  all_goals refine ⟨(by
    first
    | (dsimp only [set_A, set_S, _NZ] <;>
       repeat' (first | apply ite_bcd_of | apply ite_fst_bcd_of | rfl))
    | rfl), ?_⟩
  case h_4 => exact Or.inl (fetch_sync _ _)
  all_goals exact Or.inr (Or.inl ⟨(by
    first
    | (dsimp only [set_A, set_S, _NZ] <;>
       repeat' (first | apply ite_IR_of | apply ite_fst_IR_of | rfl))
    | rfl), by decide, Eq.refl true⟩)

theorem op_69_isSome (step : Nat) (c : w65816_t) (pins : Nat) :
    (op_69 step c pins).isSome = (op_69 step (w65816_init false).1 0).isSome := by
  unfold op_69
  split <;> first | exact Eq.refl true | exact Eq.refl false

theorem op_69_live (step : Nat) (c : w65816_t) (pins : Nat) (r : w65816_t × Nat)
    (h : op_69 step c pins = some r) :
    r.1.bcd_enabled = c.bcd_enabled ∧
    (sync_out r.2 = true ∨
      (r.1.IR = c.IR ∧ step + 1 < 8 ∧ (op_69 (step + 1) (w65816_init false).1 0).isSome = true) ∨
      ((r.1.IR = (c.IR + 0) % 65536 ∨ r.1.IR = (c.IR + 1) % 65536) ∧ step + 2 < 8 ∧
        (op_69 (step + 1) (w65816_init false).1 0).isSome = true ∧ (op_69 (step + 2) (w65816_init false).1 0).isSome = true)) := by
  unfold op_69 at h
  split at h
  case h_3 => exact Option.noConfusion h
  all_goals cases h
  all_goals refine ⟨(by
    first
    | (dsimp only [] <;>
       repeat' (first | apply ite_bcd_of | apply ite_fst_bcd_of | apply adc_bcd_of | rfl))
    | rfl), ?_⟩
  case h_2 => exact Or.inl (fetch_sync _ _)
  all_goals exact Or.inr (Or.inl ⟨(by
    first
    | (dsimp only [] <;>
       repeat' (first | apply ite_IR_of | apply ite_fst_IR_of | apply adc_IR_of | rfl))
    | rfl), by decide, Eq.refl true⟩)

theorem op_6A_isSome (step : Nat) (c : w65816_t) (pins : Nat) :
    (op_6A step c pins).isSome = (op_6A step (w65816_init false).1 0).isSome := by
  unfold op_6A
  split <;> first | exact Eq.refl true | exact Eq.refl false

theorem op_6A_live (step : Nat) (c : w65816_t) (pins : Nat) (r : w65816_t × Nat)
    (h : op_6A step c pins = some r) :
    r.1.bcd_enabled = c.bcd_enabled ∧
    (sync_out r.2 = true ∨
      (r.1.IR = c.IR ∧ step + 1 < 8 ∧ (op_6A (step + 1) (w65816_init false).1 0).isSome = true) ∨
      ((r.1.IR = (c.IR + 0) % 65536 ∨ r.1.IR = (c.IR + 1) % 65536) ∧ step + 2 < 8 ∧
        (op_6A (step + 1) (w65816_init false).1 0).isSome = true ∧ (op_6A (step + 2) (w65816_init false).1 0).isSome = true)) := by
  unfold op_6A at h
  split at h
  case h_3 => exact Option.noConfusion h
  all_goals cases h
  all_goals refine ⟨(by
    first
    | (dsimp only [set_A] <;>
       repeat' (first | apply ite_bcd_of | apply ite_fst_bcd_of | apply ror_bcd_of | rfl))
    | rfl), ?_⟩
  case h_2 => exact Or.inl (fetch_sync _ _)
  all_goals exact Or.inr (Or.inl ⟨(by
    first
    | (dsimp only [set_A] <;>
       repeat' (first | apply ite_IR_of | apply ite_fst_IR_of | apply ror_IR_of | rfl))
    | rfl), by decide, Eq.refl true⟩)

theorem op_6B_isSome (step : Nat) (c : w65816_t) (pins : Nat) :
    (op_6B step c pins).isSome = (op_6B step (w65816_init false).1 0).isSome := by
  unfold op_6B
  split <;> first | exact Eq.refl true | exact Eq.refl false

theorem op_6B_live (step : Nat) (c : w65816_t) (pins : Nat) (r : w65816_t × Nat)
    (h : op_6B step c pins = some r) :
    r.1.bcd_enabled = c.bcd_enabled ∧
    (sync_out r.2 = true ∨
      (r.1.IR = c.IR ∧ step + 1 < 8 ∧ (op_6B (step + 1) (w65816_init false).1 0).isSome = true) ∨
      ((r.1.IR = (c.IR + 0) % 65536 ∨ r.1.IR = (c.IR + 1) % 65536) ∧ step + 2 < 8 ∧
        (op_6B (step + 1) (w65816_init false).1 0).isSome = true ∧ (op_6B (step + 2) (w65816_init false).1 0).isSome = true)) := by
  unfold op_6B at h
  split at h
  case h_3 => exact Option.noConfusion h
  all_goals cases h
  all_goals refine ⟨(by
    first
    | (dsimp only [set_S] <;>
       repeat' (first | apply ite_bcd_of | apply ite_fst_bcd_of | rfl))
    | rfl), ?_⟩
  case h_2 => exact Or.inl (fetch_sync _ _)
  all_goals exact Or.inr (Or.inl ⟨(by
    first
    | (dsimp only [set_S] <;>
       repeat' (first | apply ite_IR_of | apply ite_fst_IR_of | rfl))
    | rfl), by decide, Eq.refl true⟩)

theorem op_6C_isSome (step : Nat) (c : w65816_t) (pins : Nat) :
    (op_6C step c pins).isSome = (op_6C step (w65816_init false).1 0).isSome := by
  unfold op_6C
  split <;> first | exact Eq.refl true | exact Eq.refl false

theorem op_6C_live (step : Nat) (c : w65816_t) (pins : Nat) (r : w65816_t × Nat)
    (h : op_6C step c pins = some r) :
    r.1.bcd_enabled = c.bcd_enabled ∧
    (sync_out r.2 = true ∨
      (r.1.IR = c.IR ∧ step + 1 < 8 ∧ (op_6C (step + 1) (w65816_init false).1 0).isSome = true) ∨
      ((r.1.IR = (c.IR + 0) % 65536 ∨ r.1.IR = (c.IR + 1) % 65536) ∧ step + 2 < 8 ∧
        (op_6C (step + 1) (w65816_init false).1 0).isSome = true ∧ (op_6C (step + 2) (w65816_init false).1 0).isSome = true)) := by
  unfold op_6C at h
  split at h
  case h_6 => exact Option.noConfusion h
  all_goals cases h
  all_goals refine ⟨(by
    first
    | (dsimp only [] <;>
       repeat' (first | apply ite_bcd_of | apply ite_fst_bcd_of | rfl))
    | rfl), ?_⟩
  case h_5 => exact Or.inl (fetch_sync _ _)
  all_goals exact Or.inr (Or.inl ⟨(by
    first
    | (dsimp only [] <;>
       repeat' (first | apply ite_IR_of | apply ite_fst_IR_of | rfl))
    | rfl), by decide, Eq.refl true⟩)

theorem op_6D_isSome (step : Nat) (c : w65816_t) (pins : Nat) :
    (op_6D step c pins).isSome = (op_6D step (w65816_init false).1 0).isSome := by
  unfold op_6D
  split <;> first | exact Eq.refl true | exact Eq.refl false

theorem op_6D_live (step : Nat) (c : w65816_t) (pins : Nat) (r : w65816_t × Nat)
    (h : op_6D step c pins = some r) :
    r.1.bcd_enabled = c.bcd_enabled ∧
    (sync_out r.2 = true ∨
      (r.1.IR = c.IR ∧ step + 1 < 8 ∧ (op_6D (step + 1) (w65816_init false).1 0).isSome = true) ∨
      ((r.1.IR = (c.IR + 0) % 65536 ∨ r.1.IR = (c.IR + 1) % 65536) ∧ step + 2 < 8 ∧
        (op_6D (step + 1) (w65816_init false).1 0).isSome = true ∧ (op_6D (step + 2) (w65816_init false).1 0).isSome = true)) := by
  unfold op_6D at h
  split at h
  case h_5 => exact Option.noConfusion h
  all_goals cases h
  all_goals refine ⟨(by
    first
    | (dsimp only [] <;>
       repeat' (first | apply ite_bcd_of | apply ite_fst_bcd_of | apply adc_bcd_of | rfl))
    | rfl), ?_⟩
  case h_4 => exact Or.inl (fetch_sync _ _)
  all_goals exact Or.inr (Or.inl ⟨(by
    first
    | (dsimp only [] <;>
       repeat' (first | apply ite_IR_of | apply ite_fst_IR_of | apply adc_IR_of | rfl))
    | rfl), by decide, Eq.refl true⟩)

theorem op_6E_isSome (step : Nat) (c : w65816_t) (pins : Nat) :
    (op_6E step c pins).isSome = (op_6E step (w65816_init false).1 0).isSome := by
  unfold op_6E
  split <;> first | exact Eq.refl true | exact Eq.refl false

theorem op_6E_live (step : Nat) (c : w65816_t) (pins : Nat) (r : w65816_t × Nat)
    (h : op_6E step c pins = some r) :
    r.1.bcd_enabled = c.bcd_enabled ∧
    (sync_out r.2 = true ∨
      (r.1.IR = c.IR ∧ step + 1 < 8 ∧ (op_6E (step + 1) (w65816_init false).1 0).isSome = true) ∨
      ((r.1.IR = (c.IR + 0) % 65536 ∨ r.1.IR = (c.IR + 1) % 65536) ∧ step + 2 < 8 ∧
        (op_6E (step + 1) (w65816_init false).1 0).isSome = true ∧ (op_6E (step + 2) (w65816_init false).1 0).isSome = true)) := by
  unfold op_6E at h
  split at h
  case h_7 => exact Option.noConfusion h
  all_goals cases h
  all_goals refine ⟨(by
    first
    | (dsimp only [] <;>
       repeat' (first | apply ite_bcd_of | apply ite_fst_bcd_of | apply ror_bcd_of | rfl))
    | rfl), ?_⟩
  case h_6 => exact Or.inl (fetch_sync _ _)
  all_goals exact Or.inr (Or.inl ⟨(by
    first
    | (dsimp only [] <;>
       repeat' (first | apply ite_IR_of | apply ite_fst_IR_of | apply ror_IR_of | rfl))
    | rfl), by decide, Eq.refl true⟩)

theorem op_6F_isSome (step : Nat) (c : w65816_t) (pins : Nat) :
    (op_6F step c pins).isSome = (op_6F step (w65816_init false).1 0).isSome := by
  unfold op_6F
  split <;> first | exact Eq.refl true | exact Eq.refl false

theorem op_6F_live (step : Nat) (c : w65816_t) (pins : Nat) (r : w65816_t × Nat)
    (h : op_6F step c pins = some r) :
    r.1.bcd_enabled = c.bcd_enabled ∧
    (sync_out r.2 = true ∨
      (r.1.IR = c.IR ∧ step + 1 < 8 ∧ (op_6F (step + 1) (w65816_init false).1 0).isSome = true) ∨
      ((r.1.IR = (c.IR + 0) % 65536 ∨ r.1.IR = (c.IR + 1) % 65536) ∧ step + 2 < 8 ∧
        (op_6F (step + 1) (w65816_init false).1 0).isSome = true ∧ (op_6F (step + 2) (w65816_init false).1 0).isSome = true)) := by
  unfold op_6F at h
  split at h
  case h_4 => exact Option.noConfusion h
  all_goals cases h
  all_goals refine ⟨(by
    first
    | (dsimp only [] <;>
       repeat' (first | apply ite_bcd_of | apply ite_fst_bcd_of | apply adc_bcd_of | rfl))
    | rfl), ?_⟩
  case h_3 => exact Or.inl (fetch_sync _ _)
  all_goals exact Or.inr (Or.inl ⟨(by
    first
    | (dsimp only [] <;>
       repeat' (first | apply ite_IR_of | apply ite_fst_IR_of | apply adc_IR_of | rfl))
    | rfl), by decide, Eq.refl true⟩)

theorem op_70_isSome (step : Nat) (c : w65816_t) (pins : Nat) :
    (op_70 step c pins).isSome = (op_70 step (w65816_init false).1 0).isSome := by
  unfold op_70
  split <;> first | exact Eq.refl true | exact Eq.refl false

theorem op_70_live (step : Nat) (c : w65816_t) (pins : Nat) (r : w65816_t × Nat)
    (h : op_70 step c pins = some r) :
    r.1.bcd_enabled = c.bcd_enabled ∧
    (sync_out r.2 = true ∨
      (r.1.IR = c.IR ∧ step + 1 < 8 ∧ (op_70 (step + 1) (w65816_init false).1 0).isSome = true) ∨
      ((r.1.IR = (c.IR + 0) % 65536 ∨ r.1.IR = (c.IR + 1) % 65536) ∧ step + 2 < 8 ∧
        (op_70 (step + 1) (w65816_init false).1 0).isSome = true ∧ (op_70 (step + 2) (w65816_init false).1 0).isSome = true)) := by
  unfold op_70 at h
  split at h
  case h_5 => exact Option.noConfusion h
  all_goals cases h
  all_goals refine ⟨(by
    first
    | (dsimp only [] <;>
       repeat' (first | apply ite_bcd_of | apply ite_fst_bcd_of | rfl))
    | rfl), ?_⟩
  case h_4 => exact Or.inl (fetch_sync _ _)
  all_goals exact Or.inr (Or.inl ⟨(by
    first
    | (dsimp only [] <;>
       repeat' (first | apply ite_IR_of | apply ite_fst_IR_of | rfl))
    | rfl), by decide, Eq.refl true⟩)

theorem op_71_isSome (step : Nat) (c : w65816_t) (pins : Nat) :
    (op_71 step c pins).isSome = (op_71 step (w65816_init false).1 0).isSome := by
  unfold op_71
  split <;> first | exact Eq.refl true | exact Eq.refl false

theorem op_71_live (step : Nat) (c : w65816_t) (pins : Nat) (r : w65816_t × Nat)
    (h : op_71 step c pins = some r) :
    r.1.bcd_enabled = c.bcd_enabled ∧
    (sync_out r.2 = true ∨
      (r.1.IR = c.IR ∧ step + 1 < 8 ∧ (op_71 (step + 1) (w65816_init false).1 0).isSome = true) ∨
      ((r.1.IR = (c.IR + 0) % 65536 ∨ r.1.IR = (c.IR + 1) % 65536) ∧ step + 2 < 8 ∧
        (op_71 (step + 1) (w65816_init false).1 0).isSome = true ∧ (op_71 (step + 2) (w65816_init false).1 0).isSome = true)) := by
  unfold op_71 at h
  split at h
  case h_7 => exact Option.noConfusion h
  all_goals cases h
  all_goals refine ⟨(by
    first
    | (dsimp only [] <;>
       repeat' (first | apply ite_bcd_of | apply ite_fst_bcd_of | apply adc_bcd_of | rfl))
    | rfl), ?_⟩
  case h_4 => exact Or.inr (Or.inr ⟨skip_IR _ _, by decide, Eq.refl true, Eq.refl true⟩)
  case h_6 => exact Or.inl (fetch_sync _ _)
  all_goals exact Or.inr (Or.inl ⟨(by
    first
    | (dsimp only [] <;>
       repeat' (first | apply ite_IR_of | apply ite_fst_IR_of | apply adc_IR_of | rfl))
    | rfl), by decide, Eq.refl true⟩)

theorem op_72_isSome (step : Nat) (c : w65816_t) (pins : Nat) :
    (op_72 step c pins).isSome = (op_72 step (w65816_init false).1 0).isSome := by
  unfold op_72
  split <;> first | exact Eq.refl true | exact Eq.refl false

theorem op_72_live (step : Nat) (c : w65816_t) (pins : Nat) (r : w65816_t × Nat)
    (h : op_72 step c pins = some r) :
    r.1.bcd_enabled = c.bcd_enabled ∧
    (sync_out r.2 = true ∨
      (r.1.IR = c.IR ∧ step + 1 < 8 ∧ (op_72 (step + 1) (w65816_init false).1 0).isSome = true) ∨
      ((r.1.IR = (c.IR + 0) % 65536 ∨ r.1.IR = (c.IR + 1) % 65536) ∧ step + 2 < 8 ∧
        (op_72 (step + 1) (w65816_init false).1 0).isSome = true ∧ (op_72 (step + 2) (w65816_init false).1 0).isSome = true)) := by
  unfold op_72 at h
  split at h
  case h_4 => exact Option.noConfusion h
  all_goals cases h
  all_goals refine ⟨(by
    first
    | (dsimp only [] <;>
       repeat' (first | apply ite_bcd_of | apply ite_fst_bcd_of | apply adc_bcd_of | rfl))
    | rfl), ?_⟩
  case h_3 => exact Or.inl (fetch_sync _ _)
  all_goals exact Or.inr (Or.inl ⟨(by
    first
    | (dsimp only [] <;>
       repeat' (first | apply ite_IR_of | apply ite_fst_IR_of | apply adc_IR_of | rfl))
    | rfl), by decide, Eq.refl true⟩)

theorem op_73_isSome (step : Nat) (c : w65816_t) (pins : Nat) :
    (op_73 step c pins).isSome = (op_73 step (w65816_init false).1 0).isSome := by
  unfold op_73
  split <;> first | exact Eq.refl true | exact Eq.refl false

theorem op_73_live (step : Nat) (c : w65816_t) (pins : Nat) (r : w65816_t × Nat)
    (h : op_73 step c pins = some r) :
    r.1.bcd_enabled = c.bcd_enabled ∧
    (sync_out r.2 = true ∨
      (r.1.IR = c.IR ∧ step + 1 < 8 ∧ (op_73 (step + 1) (w65816_init false).1 0).isSome = true) ∨
      ((r.1.IR = (c.IR + 0) % 65536 ∨ r.1.IR = (c.IR + 1) % 65536) ∧ step + 2 < 8 ∧
        (op_73 (step + 1) (w65816_init false).1 0).isSome = true ∧ (op_73 (step + 2) (w65816_init false).1 0).isSome = true)) := by
  unfold op_73 at h
  split at h
  case h_4 => exact Option.noConfusion h
  all_goals cases h
  all_goals refine ⟨(by
    first
    | (dsimp only [] <;>
       repeat' (first | apply ite_bcd_of | apply ite_fst_bcd_of | apply adc_bcd_of | rfl))
    | rfl), ?_⟩
  case h_3 => exact Or.inl (fetch_sync _ _)
  all_goals exact Or.inr (Or.inl ⟨(by
    first
    | (dsimp only [] <;>
       repeat' (first | apply ite_IR_of | apply ite_fst_IR_of | apply adc_IR_of | rfl))
    | rfl), by decide, Eq.refl true⟩)

theorem op_74_isSome (step : Nat) (c : w65816_t) (pins : Nat) :
    (op_74 step c pins).isSome = (op_74 step (w65816_init false).1 0).isSome := by
  unfold op_74
  split <;> first | exact Eq.refl true | exact Eq.refl false

theorem op_74_live (step : Nat) (c : w65816_t) (pins : Nat) (r : w65816_t × Nat)
    (h : op_74 step c pins = some r) :
    r.1.bcd_enabled = c.bcd_enabled ∧
    (sync_out r.2 = true ∨
      (r.1.IR = c.IR ∧ step + 1 < 8 ∧ (op_74 (step + 1) (w65816_init false).1 0).isSome = true) ∨
      ((r.1.IR = (c.IR + 0) % 65536 ∨ r.1.IR = (c.IR + 1) % 65536) ∧ step + 2 < 8 ∧
        (op_74 (step + 1) (w65816_init false).1 0).isSome = true ∧ (op_74 (step + 2) (w65816_init false).1 0).isSome = true)) := by
  unfold op_74 at h
  split at h
  case h_6 => exact Option.noConfusion h
  all_goals cases h
  all_goals refine ⟨(by
    first
    | (dsimp only [] <;>
       repeat' (first | apply ite_bcd_of | apply ite_fst_bcd_of | rfl))
    | rfl), ?_⟩
  case h_5 => exact Or.inl (fetch_sync _ _)
  all_goals exact Or.inr (Or.inl ⟨(by
    first
    | (dsimp only [] <;>
       repeat' (first | apply ite_IR_of | apply ite_fst_IR_of | rfl))
    | rfl), by decide, Eq.refl true⟩)

theorem op_75_isSome (step : Nat) (c : w65816_t) (pins : Nat) :
    (op_75 step c pins).isSome = (op_75 step (w65816_init false).1 0).isSome := by
  unfold op_75
  split <;> first | exact Eq.refl true | exact Eq.refl false

theorem op_75_live (step : Nat) (c : w65816_t) (pins : Nat) (r : w65816_t × Nat)
    (h : op_75 step c pins = some r) :
    r.1.bcd_enabled = c.bcd_enabled ∧
    (sync_out r.2 = true ∨
      (r.1.IR = c.IR ∧ step + 1 < 8 ∧ (op_75 (step + 1) (w65816_init false).1 0).isSome = true) ∨
      ((r.1.IR = (c.IR + 0) % 65536 ∨ r.1.IR = (c.IR + 1) % 65536) ∧ step + 2 < 8 ∧
        (op_75 (step + 1) (w65816_init false).1 0).isSome = true ∧ (op_75 (step + 2) (w65816_init false).1 0).isSome = true)) := by
  unfold op_75 at h
  split at h
  case h_5 => exact Option.noConfusion h
  all_goals cases h
  all_goals refine ⟨(by
    first
    | (dsimp only [] <;>
       repeat' (first | apply ite_bcd_of | apply ite_fst_bcd_of | apply adc_bcd_of | rfl))
    | rfl), ?_⟩
  case h_4 => exact Or.inl (fetch_sync _ _)
  all_goals exact Or.inr (Or.inl ⟨(by
    first
    | (dsimp only [] <;>
       repeat' (first | apply ite_IR_of | apply ite_fst_IR_of | apply adc_IR_of | rfl))
    | rfl), by decide, Eq.refl true⟩)

theorem op_76_isSome (step : Nat) (c : w65816_t) (pins : Nat) :
    (op_76 step c pins).isSome = (op_76 step (w65816_init false).1 0).isSome := by
  unfold op_76
  split <;> first | exact Eq.refl true | exact Eq.refl false

theorem op_76_live (step : Nat) (c : w65816_t) (pins : Nat) (r : w65816_t × Nat)
    (h : op_76 step c pins = some r) :
    r.1.bcd_enabled = c.bcd_enabled ∧
    (sync_out r.2 = true ∨
      (r.1.IR = c.IR ∧ step + 1 < 8 ∧ (op_76 (step + 1) (w65816_init false).1 0).isSome = true) ∨
      ((r.1.IR = (c.IR + 0) % 65536 ∨ r.1.IR = (c.IR + 1) % 65536) ∧ step + 2 < 8 ∧
        (op_76 (step + 1) (w65816_init false).1 0).isSome = true ∧ (op_76 (step + 2) (w65816_init false).1 0).isSome = true)) := by
  unfold op_76 at h
  split at h
  case h_7 => exact Option.noConfusion h
  all_goals cases h
  all_goals refine ⟨(by
    first
    | (dsimp only [] <;>
       repeat' (first | apply ite_bcd_of | apply ite_fst_bcd_of | apply ror_bcd_of | rfl))
    | rfl), ?_⟩
  case h_6 => exact Or.inl (fetch_sync _ _)
  all_goals exact Or.inr (Or.inl ⟨(by
    first
    | (dsimp only [] <;>
       repeat' (first | apply ite_IR_of | apply ite_fst_IR_of | apply ror_IR_of | rfl))
    | rfl), by decide, Eq.refl true⟩)

theorem op_77_isSome (step : Nat) (c : w65816_t) (pins : Nat) :
    (op_77 step c pins).isSome = (op_77 step (w65816_init false).1 0).isSome := by
  unfold op_77
  split <;> first | exact Eq.refl true | exact Eq.refl false

theorem op_77_live (step : Nat) (c : w65816_t) (pins : Nat) (r : w65816_t × Nat)
    (h : op_77 step c pins = some r) :
    r.1.bcd_enabled = c.bcd_enabled ∧
    (sync_out r.2 = true ∨
      (r.1.IR = c.IR ∧ step + 1 < 8 ∧ (op_77 (step + 1) (w65816_init false).1 0).isSome = true) ∨
      ((r.1.IR = (c.IR + 0) % 65536 ∨ r.1.IR = (c.IR + 1) % 65536) ∧ step + 2 < 8 ∧
        (op_77 (step + 1) (w65816_init false).1 0).isSome = true ∧ (op_77 (step + 2) (w65816_init false).1 0).isSome = true)) := by
  unfold op_77 at h
  split at h
  case h_4 => exact Option.noConfusion h
  all_goals cases h
  all_goals refine ⟨(by
    first
    | (dsimp only [] <;>
       repeat' (first | apply ite_bcd_of | apply ite_fst_bcd_of | apply adc_bcd_of | rfl))
    | rfl), ?_⟩
  case h_3 => exact Or.inl (fetch_sync _ _)
  all_goals exact Or.inr (Or.inl ⟨(by
    first
    | (dsimp only [] <;>
       repeat' (first | apply ite_IR_of | apply ite_fst_IR_of | apply adc_IR_of | rfl))
    | rfl), by decide, Eq.refl true⟩)

theorem op_78_isSome (step : Nat) (c : w65816_t) (pins : Nat) :
    (op_78 step c pins).isSome = (op_78 step (w65816_init false).1 0).isSome := by
  unfold op_78
  split <;> first | exact Eq.refl true | exact Eq.refl false

theorem op_78_live (step : Nat) (c : w65816_t) (pins : Nat) (r : w65816_t × Nat)
    (h : op_78 step c pins = some r) :
    r.1.bcd_enabled = c.bcd_enabled ∧
    (sync_out r.2 = true ∨
      (r.1.IR = c.IR ∧ step + 1 < 8 ∧ (op_78 (step + 1) (w65816_init false).1 0).isSome = true) ∨
      ((r.1.IR = (c.IR + 0) % 65536 ∨ r.1.IR = (c.IR + 1) % 65536) ∧ step + 2 < 8 ∧
        (op_78 (step + 1) (w65816_init false).1 0).isSome = true ∧ (op_78 (step + 2) (w65816_init false).1 0).isSome = true)) := by
  unfold op_78 at h
  split at h
  case h_3 => exact Option.noConfusion h
  all_goals cases h
  all_goals refine ⟨(by
    first
    | (dsimp only [] <;>
       repeat' (first | apply ite_bcd_of | apply ite_fst_bcd_of | rfl))
    | rfl), ?_⟩
  case h_2 => exact Or.inl (fetch_sync _ _)
  all_goals exact Or.inr (Or.inl ⟨(by
    first
    | (dsimp only [] <;>
       repeat' (first | apply ite_IR_of | apply ite_fst_IR_of | rfl))
    | rfl), by decide, Eq.refl true⟩)

theorem op_79_isSome (step : Nat) (c : w65816_t) (pins : Nat) :
    (op_79 step c pins).isSome = (op_79 step (w65816_init false).1 0).isSome := by
  unfold op_79
  split <;> first | exact Eq.refl true | exact Eq.refl false

theorem op_79_live (step : Nat) (c : w65816_t) (pins : Nat) (r : w65816_t × Nat)
    (h : op_79 step c pins = some r) :
    r.1.bcd_enabled = c.bcd_enabled ∧
    (sync_out r.2 = true ∨
      (r.1.IR = c.IR ∧ step + 1 < 8 ∧ (op_79 (step + 1) (w65816_init false).1 0).isSome = true) ∨
      ((r.1.IR = (c.IR + 0) % 65536 ∨ r.1.IR = (c.IR + 1) % 65536) ∧ step + 2 < 8 ∧
        (op_79 (step + 1) (w65816_init false).1 0).isSome = true ∧ (op_79 (step + 2) (w65816_init false).1 0).isSome = true)) := by
  unfold op_79 at h
  split at h
  case h_6 => exact Option.noConfusion h
  all_goals cases h
  all_goals refine ⟨(by
    first
    | (dsimp only [] <;>
       repeat' (first | apply ite_bcd_of | apply ite_fst_bcd_of | apply adc_bcd_of | rfl))
    | rfl), ?_⟩
  case h_3 => exact Or.inr (Or.inr ⟨skip_IR _ _, by decide, Eq.refl true, Eq.refl true⟩)
  case h_5 => exact Or.inl (fetch_sync _ _)
  all_goals exact Or.inr (Or.inl ⟨(by
    first
    | (dsimp only [] <;>
       repeat' (first | apply ite_IR_of | apply ite_fst_IR_of | apply adc_IR_of | rfl))
    | rfl), by decide, Eq.refl true⟩)

theorem op_7A_isSome (step : Nat) (c : w65816_t) (pins : Nat) :
    (op_7A step c pins).isSome = (op_7A step (w65816_init false).1 0).isSome := by
  unfold op_7A
  split <;> first | exact Eq.refl true | exact Eq.refl false

theorem op_7A_live (step : Nat) (c : w65816_t) (pins : Nat) (r : w65816_t × Nat)
    (h : op_7A step c pins = some r) :
    r.1.bcd_enabled = c.bcd_enabled ∧
    (sync_out r.2 = true ∨
      (r.1.IR = c.IR ∧ step + 1 < 8 ∧ (op_7A (step + 1) (w65816_init false).1 0).isSome = true) ∨
      ((r.1.IR = (c.IR + 0) % 65536 ∨ r.1.IR = (c.IR + 1) % 65536) ∧ step + 2 < 8 ∧
        (op_7A (step + 1) (w65816_init false).1 0).isSome = true ∧ (op_7A (step + 2) (w65816_init false).1 0).isSome = true)) := by
  unfold op_7A at h
  split at h
  case h_5 => exact Option.noConfusion h
  all_goals cases h
  all_goals refine ⟨(by
    first
    | (dsimp only [set_Y, set_S, _NZ] <;>
       repeat' (first | apply ite_bcd_of | apply ite_fst_bcd_of | rfl))
    | rfl), ?_⟩
  case h_4 => exact Or.inl (fetch_sync _ _)
  all_goals exact Or.inr (Or.inl ⟨(by
    first
    | (dsimp only [set_Y, set_S, _NZ] <;>
       repeat' (first | apply ite_IR_of | apply ite_fst_IR_of | rfl))
    | rfl), by decide, Eq.refl true⟩)

theorem op_7B_isSome (step : Nat) (c : w65816_t) (pins : Nat) :
    (op_7B step c pins).isSome = (op_7B step (w65816_init false).1 0).isSome := by
  unfold op_7B
  split <;> first | exact Eq.refl true | exact Eq.refl false

theorem op_7B_live (step : Nat) (c : w65816_t) (pins : Nat) (r : w65816_t × Nat)
    (h : op_7B step c pins = some r) :
    r.1.bcd_enabled = c.bcd_enabled ∧
    (sync_out r.2 = true ∨
      (r.1.IR = c.IR ∧ step + 1 < 8 ∧ (op_7B (step + 1) (w65816_init false).1 0).isSome = true) ∨
      ((r.1.IR = (c.IR + 0) % 65536 ∨ r.1.IR = (c.IR + 1) % 65536) ∧ step + 2 < 8 ∧
        (op_7B (step + 1) (w65816_init false).1 0).isSome = true ∧ (op_7B (step + 2) (w65816_init false).1 0).isSome = true)) := by
  unfold op_7B at h
  split at h
  case h_3 => exact Option.noConfusion h
  all_goals cases h
  all_goals refine ⟨(by
    first
    | (dsimp only [_NZ] <;>
       repeat' (first | apply ite_bcd_of | apply ite_fst_bcd_of | rfl))
    | rfl), ?_⟩
  case h_2 => exact Or.inl (fetch_sync _ _)
  all_goals exact Or.inr (Or.inl ⟨(by
    first
    | (dsimp only [_NZ] <;>
       repeat' (first | apply ite_IR_of | apply ite_fst_IR_of | rfl))
    | rfl), by decide, Eq.refl true⟩)

theorem op_7C_isSome (step : Nat) (c : w65816_t) (pins : Nat) :
    (op_7C step c pins).isSome = (op_7C step (w65816_init false).1 0).isSome := by
  unfold op_7C
  split <;> first | exact Eq.refl true | exact Eq.refl false

theorem op_7C_live (step : Nat) (c : w65816_t) (pins : Nat) (r : w65816_t × Nat)
    (h : op_7C step c pins = some r) :
    r.1.bcd_enabled = c.bcd_enabled ∧
    (sync_out r.2 = true ∨
      (r.1.IR = c.IR ∧ step + 1 < 8 ∧ (op_7C (step + 1) (w65816_init false).1 0).isSome = true) ∨
      ((r.1.IR = (c.IR + 0) % 65536 ∨ r.1.IR = (c.IR + 1) % 65536) ∧ step + 2 < 8 ∧
        (op_7C (step + 1) (w65816_init false).1 0).isSome = true ∧ (op_7C (step + 2) (w65816_init false).1 0).isSome = true)) := by
  unfold op_7C at h
  split at h
  case h_6 => exact Option.noConfusion h
  all_goals cases h
  all_goals refine ⟨(by
    first
    | (dsimp only [] <;>
       repeat' (first | apply ite_bcd_of | apply ite_fst_bcd_of | rfl))
    | rfl), ?_⟩
  case h_5 => exact Or.inl (fetch_sync _ _)
  all_goals exact Or.inr (Or.inl ⟨(by
    first
    | (dsimp only [] <;>
       repeat' (first | apply ite_IR_of | apply ite_fst_IR_of | rfl))
    | rfl), by decide, Eq.refl true⟩)

theorem op_7D_isSome (step : Nat) (c : w65816_t) (pins : Nat) :
    (op_7D step c pins).isSome = (op_7D step (w65816_init false).1 0).isSome := by
  unfold op_7D
  split <;> first | exact Eq.refl true | exact Eq.refl false

theorem op_7D_live (step : Nat) (c : w65816_t) (pins : Nat) (r : w65816_t × Nat)
    (h : op_7D step c pins = some r) :
    r.1.bcd_enabled = c.bcd_enabled ∧
    (sync_out r.2 = true ∨
      (r.1.IR = c.IR ∧ step + 1 < 8 ∧ (op_7D (step + 1) (w65816_init false).1 0).isSome = true) ∨
      ((r.1.IR = (c.IR + 0) % 65536 ∨ r.1.IR = (c.IR + 1) % 65536) ∧ step + 2 < 8 ∧
        (op_7D (step + 1) (w65816_init false).1 0).isSome = true ∧ (op_7D (step + 2) (w65816_init false).1 0).isSome = true)) := by
  unfold op_7D at h
  split at h
  case h_6 => exact Option.noConfusion h
  all_goals cases h
  all_goals refine ⟨(by
    first
    | (dsimp only [] <;>
       repeat' (first | apply ite_bcd_of | apply ite_fst_bcd_of | apply adc_bcd_of | rfl))
    | rfl), ?_⟩
  case h_3 => exact Or.inr (Or.inr ⟨skip_IR _ _, by decide, Eq.refl true, Eq.refl true⟩)
  case h_5 => exact Or.inl (fetch_sync _ _)
  all_goals exact Or.inr (Or.inl ⟨(by
    first
    | (dsimp only [] <;>
       repeat' (first | apply ite_IR_of | apply ite_fst_IR_of | apply adc_IR_of | rfl))
    | rfl), by decide, Eq.refl true⟩)

theorem op_7E_isSome (step : Nat) (c : w65816_t) (pins : Nat) :
    (op_7E step c pins).isSome = (op_7E step (w65816_init false).1 0).isSome := by
  unfold op_7E
  split <;> first | exact Eq.refl true | exact Eq.refl false

theorem op_7E_live (step : Nat) (c : w65816_t) (pins : Nat) (r : w65816_t × Nat)
    (h : op_7E step c pins = some r) :
    r.1.bcd_enabled = c.bcd_enabled ∧
    (sync_out r.2 = true ∨
      (r.1.IR = c.IR ∧ step + 1 < 8 ∧ (op_7E (step + 1) (w65816_init false).1 0).isSome = true) ∨
      ((r.1.IR = (c.IR + 0) % 65536 ∨ r.1.IR = (c.IR + 1) % 65536) ∧ step + 2 < 8 ∧
        (op_7E (step + 1) (w65816_init false).1 0).isSome = true ∧ (op_7E (step + 2) (w65816_init false).1 0).isSome = true)) := by
  unfold op_7E at h
  split at h
  case h_8 => exact Option.noConfusion h
  all_goals cases h
  all_goals refine ⟨(by
    first
    | (dsimp only [] <;>
       repeat' (first | apply ite_bcd_of | apply ite_fst_bcd_of | apply ror_bcd_of | rfl))
    | rfl), ?_⟩
  case h_7 => exact Or.inl (fetch_sync _ _)
  all_goals exact Or.inr (Or.inl ⟨(by
    first
    | (dsimp only [] <;>
       repeat' (first | apply ite_IR_of | apply ite_fst_IR_of | apply ror_IR_of | rfl))
    | rfl), by decide, Eq.refl true⟩)

theorem op_7F_isSome (step : Nat) (c : w65816_t) (pins : Nat) :
    (op_7F step c pins).isSome = (op_7F step (w65816_init false).1 0).isSome := by
  unfold op_7F
  split <;> first | exact Eq.refl true | exact Eq.refl false

theorem op_7F_live (step : Nat) (c : w65816_t) (pins : Nat) (r : w65816_t × Nat)
    (h : op_7F step c pins = some r) :
    r.1.bcd_enabled = c.bcd_enabled ∧
    (sync_out r.2 = true ∨
      (r.1.IR = c.IR ∧ step + 1 < 8 ∧ (op_7F (step + 1) (w65816_init false).1 0).isSome = true) ∨
      ((r.1.IR = (c.IR + 0) % 65536 ∨ r.1.IR = (c.IR + 1) % 65536) ∧ step + 2 < 8 ∧
        (op_7F (step + 1) (w65816_init false).1 0).isSome = true ∧ (op_7F (step + 2) (w65816_init false).1 0).isSome = true)) := by
  unfold op_7F at h
  split at h
  case h_4 => exact Option.noConfusion h
  all_goals cases h
  all_goals refine ⟨(by
    first
    | (dsimp only [] <;>
       repeat' (first | apply ite_bcd_of | apply ite_fst_bcd_of | apply adc_bcd_of | rfl))
    | rfl), ?_⟩
  case h_3 => exact Or.inl (fetch_sync _ _)
  all_goals exact Or.inr (Or.inl ⟨(by
    first
    | (dsimp only [] <;>
       repeat' (first | apply ite_IR_of | apply ite_fst_IR_of | apply adc_IR_of | rfl))
    | rfl), by decide, Eq.refl true⟩)

theorem op_80_isSome (step : Nat) (c : w65816_t) (pins : Nat) :
    (op_80 step c pins).isSome = (op_80 step (w65816_init false).1 0).isSome := by
  unfold op_80
  split <;> first | exact Eq.refl true | exact Eq.refl false

theorem op_80_live (step : Nat) (c : w65816_t) (pins : Nat) (r : w65816_t × Nat)
    (h : op_80 step c pins = some r) :
    r.1.bcd_enabled = c.bcd_enabled ∧
    (sync_out r.2 = true ∨
      (r.1.IR = c.IR ∧ step + 1 < 8 ∧ (op_80 (step + 1) (w65816_init false).1 0).isSome = true) ∨
      ((r.1.IR = (c.IR + 0) % 65536 ∨ r.1.IR = (c.IR + 1) % 65536) ∧ step + 2 < 8 ∧
        (op_80 (step + 1) (w65816_init false).1 0).isSome = true ∧ (op_80 (step + 2) (w65816_init false).1 0).isSome = true)) := by
  unfold op_80 at h
  split at h
  case h_5 => exact Option.noConfusion h
  all_goals cases h
  all_goals refine ⟨(by
    first
    | (dsimp only [] <;>
       repeat' (first | apply ite_bcd_of | apply ite_fst_bcd_of | rfl))
    | rfl), ?_⟩
  case h_4 => exact Or.inl (fetch_sync _ _)
  all_goals exact Or.inr (Or.inl ⟨(by
    first
    | (dsimp only [] <;>
       repeat' (first | apply ite_IR_of | apply ite_fst_IR_of | rfl))
    | rfl), by decide, Eq.refl true⟩)

theorem op_81_isSome (step : Nat) (c : w65816_t) (pins : Nat) :
    (op_81 step c pins).isSome = (op_81 step (w65816_init false).1 0).isSome := by
  unfold op_81
  split <;> first | exact Eq.refl true | exact Eq.refl false

theorem op_81_live (step : Nat) (c : w65816_t) (pins : Nat) (r : w65816_t × Nat)
    (h : op_81 step c pins = some r) :
    r.1.bcd_enabled = c.bcd_enabled ∧
    (sync_out r.2 = true ∨
      (r.1.IR = c.IR ∧ step + 1 < 8 ∧ (op_81 (step + 1) (w65816_init false).1 0).isSome = true) ∨
      ((r.1.IR = (c.IR + 0) % 65536 ∨ r.1.IR = (c.IR + 1) % 65536) ∧ step + 2 < 8 ∧
        (op_81 (step + 1) (w65816_init false).1 0).isSome = true ∧ (op_81 (step + 2) (w65816_init false).1 0).isSome = true)) := by
  unfold op_81 at h
  split at h
  case h_8 => exact Option.noConfusion h
  all_goals cases h
  all_goals refine ⟨(by
    first
    | (dsimp only [] <;>
       repeat' (first | apply ite_bcd_of | apply ite_fst_bcd_of | rfl))
    | rfl), ?_⟩
  case h_7 => exact Or.inl (fetch_sync _ _)
  all_goals exact Or.inr (Or.inl ⟨(by
    first
    | (dsimp only [] <;>
       repeat' (first | apply ite_IR_of | apply ite_fst_IR_of | rfl))
    | rfl), by decide, Eq.refl true⟩)

theorem op_82_isSome (step : Nat) (c : w65816_t) (pins : Nat) :
    (op_82 step c pins).isSome = (op_82 step (w65816_init false).1 0).isSome := by
  unfold op_82
  split <;> first | exact Eq.refl true | exact Eq.refl false

theorem op_82_live (step : Nat) (c : w65816_t) (pins : Nat) (r : w65816_t × Nat)
    (h : op_82 step c pins = some r) :
    r.1.bcd_enabled = c.bcd_enabled ∧
    (sync_out r.2 = true ∨
      (r.1.IR = c.IR ∧ step + 1 < 8 ∧ (op_82 (step + 1) (w65816_init false).1 0).isSome = true) ∨
      ((r.1.IR = (c.IR + 0) % 65536 ∨ r.1.IR = (c.IR + 1) % 65536) ∧ step + 2 < 8 ∧
        (op_82 (step + 1) (w65816_init false).1 0).isSome = true ∧ (op_82 (step + 2) (w65816_init false).1 0).isSome = true)) := by
  unfold op_82 at h
  split at h
  case h_2 => exact Option.noConfusion h
  all_goals cases h
  all_goals refine ⟨(by
    first
    | (dsimp only [] <;>
       repeat' (first | apply ite_bcd_of | apply ite_fst_bcd_of | rfl))
    | rfl), ?_⟩
  case h_1 => exact Or.inl (fetch_sync _ _)

theorem op_83_isSome (step : Nat) (c : w65816_t) (pins : Nat) :
    (op_83 step c pins).isSome = (op_83 step (w65816_init false).1 0).isSome := by
  unfold op_83
  split <;> first | exact Eq.refl true | exact Eq.refl false

theorem op_83_live (step : Nat) (c : w65816_t) (pins : Nat) (r : w65816_t × Nat)
    (h : op_83 step c pins = some r) :
    r.1.bcd_enabled = c.bcd_enabled ∧
    (sync_out r.2 = true ∨
      (r.1.IR = c.IR ∧ step + 1 < 8 ∧ (op_83 (step + 1) (w65816_init false).1 0).isSome = true) ∨
      ((r.1.IR = (c.IR + 0) % 65536 ∨ r.1.IR = (c.IR + 1) % 65536) ∧ step + 2 < 8 ∧
        (op_83 (step + 1) (w65816_init false).1 0).isSome = true ∧ (op_83 (step + 2) (w65816_init false).1 0).isSome = true)) := by
  unfold op_83 at h
  split at h
  case h_4 => exact Option.noConfusion h
  all_goals cases h
  all_goals refine ⟨(by
    first
    | (dsimp only [] <;>
       repeat' (first | apply ite_bcd_of | apply ite_fst_bcd_of | rfl))
    | rfl), ?_⟩
  case h_3 => exact Or.inl (fetch_sync _ _)
  all_goals exact Or.inr (Or.inl ⟨(by
    first
    | (dsimp only [] <;>
       repeat' (first | apply ite_IR_of | apply ite_fst_IR_of | rfl))
    | rfl), by decide, Eq.refl true⟩)

theorem op_84_isSome (step : Nat) (c : w65816_t) (pins : Nat) :
    (op_84 step c pins).isSome = (op_84 step (w65816_init false).1 0).isSome := by
  unfold op_84
  split <;> first | exact Eq.refl true | exact Eq.refl false

theorem op_84_live (step : Nat) (c : w65816_t) (pins : Nat) (r : w65816_t × Nat)
    (h : op_84 step c pins = some r) :
    r.1.bcd_enabled = c.bcd_enabled ∧
    (sync_out r.2 = true ∨
      (r.1.IR = c.IR ∧ step + 1 < 8 ∧ (op_84 (step + 1) (w65816_init false).1 0).isSome = true) ∨
      ((r.1.IR = (c.IR + 0) % 65536 ∨ r.1.IR = (c.IR + 1) % 65536) ∧ step + 2 < 8 ∧
        (op_84 (step + 1) (w65816_init false).1 0).isSome = true ∧ (op_84 (step + 2) (w65816_init false).1 0).isSome = true)) := by
  unfold op_84 at h
  split at h
  case h_5 => exact Option.noConfusion h
  all_goals cases h
  all_goals refine ⟨(by
    first
    | (dsimp only [] <;>
       repeat' (first | apply ite_bcd_of | apply ite_fst_bcd_of | rfl))
    | rfl), ?_⟩
  case h_4 => exact Or.inl (fetch_sync _ _)
  all_goals exact Or.inr (Or.inl ⟨(by
    first
    | (dsimp only [] <;>
       repeat' (first | apply ite_IR_of | apply ite_fst_IR_of | rfl))
    | rfl), by decide, Eq.refl true⟩)

theorem op_85_isSome (step : Nat) (c : w65816_t) (pins : Nat) :
    (op_85 step c pins).isSome = (op_85 step (w65816_init false).1 0).isSome := by
  unfold op_85
  split <;> first | exact Eq.refl true | exact Eq.refl false

theorem op_85_live (step : Nat) (c : w65816_t) (pins : Nat) (r : w65816_t × Nat)
    (h : op_85 step c pins = some r) :
    r.1.bcd_enabled = c.bcd_enabled ∧
    (sync_out r.2 = true ∨
      (r.1.IR = c.IR ∧ step + 1 < 8 ∧ (op_85 (step + 1) (w65816_init false).1 0).isSome = true) ∨
      ((r.1.IR = (c.IR + 0) % 65536 ∨ r.1.IR = (c.IR + 1) % 65536) ∧ step + 2 < 8 ∧
        (op_85 (step + 1) (w65816_init false).1 0).isSome = true ∧ (op_85 (step + 2) (w65816_init false).1 0).isSome = true)) := by
  unfold op_85 at h
  split at h
  case h_5 => exact Option.noConfusion h
  all_goals cases h
  all_goals refine ⟨(by
    first
    | (dsimp only [] <;>
       repeat' (first | apply ite_bcd_of | apply ite_fst_bcd_of | rfl))
    | rfl), ?_⟩
  case h_4 => exact Or.inl (fetch_sync _ _)
  all_goals exact Or.inr (Or.inl ⟨(by
    first
    | (dsimp only [] <;>
       repeat' (first | apply ite_IR_of | apply ite_fst_IR_of | rfl))
    | rfl), by decide, Eq.refl true⟩)

theorem op_86_isSome (step : Nat) (c : w65816_t) (pins : Nat) :
    (op_86 step c pins).isSome = (op_86 step (w65816_init false).1 0).isSome := by
  unfold op_86
  split <;> first | exact Eq.refl true | exact Eq.refl false

theorem op_86_live (step : Nat) (c : w65816_t) (pins : Nat) (r : w65816_t × Nat)
    (h : op_86 step c pins = some r) :
    r.1.bcd_enabled = c.bcd_enabled ∧
    (sync_out r.2 = true ∨
      (r.1.IR = c.IR ∧ step + 1 < 8 ∧ (op_86 (step + 1) (w65816_init false).1 0).isSome = true) ∨
      ((r.1.IR = (c.IR + 0) % 65536 ∨ r.1.IR = (c.IR + 1) % 65536) ∧ step + 2 < 8 ∧
        (op_86 (step + 1) (w65816_init false).1 0).isSome = true ∧ (op_86 (step + 2) (w65816_init false).1 0).isSome = true)) := by
  unfold op_86 at h
  split at h
  case h_5 => exact Option.noConfusion h
  all_goals cases h
  all_goals refine ⟨(by
    first
    | (dsimp only [] <;>
       repeat' (first | apply ite_bcd_of | apply ite_fst_bcd_of | rfl))
    | rfl), ?_⟩
  case h_4 => exact Or.inl (fetch_sync _ _)
  all_goals exact Or.inr (Or.inl ⟨(by
    first
    | (dsimp only [] <;>
       repeat' (first | apply ite_IR_of | apply ite_fst_IR_of | rfl))
    | rfl), by decide, Eq.refl true⟩)

theorem op_87_isSome (step : Nat) (c : w65816_t) (pins : Nat) :
    (op_87 step c pins).isSome = (op_87 step (w65816_init false).1 0).isSome := by
  unfold op_87
  split <;> first | exact Eq.refl true | exact Eq.refl false

theorem op_87_live (step : Nat) (c : w65816_t) (pins : Nat) (r : w65816_t × Nat)
    (h : op_87 step c pins = some r) :
    r.1.bcd_enabled = c.bcd_enabled ∧
    (sync_out r.2 = true ∨
      (r.1.IR = c.IR ∧ step + 1 < 8 ∧ (op_87 (step + 1) (w65816_init false).1 0).isSome = true) ∨
      ((r.1.IR = (c.IR + 0) % 65536 ∨ r.1.IR = (c.IR + 1) % 65536) ∧ step + 2 < 8 ∧
        (op_87 (step + 1) (w65816_init false).1 0).isSome = true ∧ (op_87 (step + 2) (w65816_init false).1 0).isSome = true)) := by
  unfold op_87 at h
  split at h
  case h_4 => exact Option.noConfusion h
  all_goals cases h
  all_goals refine ⟨(by
    first
    | (dsimp only [] <;>
       repeat' (first | apply ite_bcd_of | apply ite_fst_bcd_of | rfl))
    | rfl), ?_⟩
  case h_3 => exact Or.inl (fetch_sync _ _)
  all_goals exact Or.inr (Or.inl ⟨(by
    first
    | (dsimp only [] <;>
       repeat' (first | apply ite_IR_of | apply ite_fst_IR_of | rfl))
    | rfl), by decide, Eq.refl true⟩)

theorem op_88_isSome (step : Nat) (c : w65816_t) (pins : Nat) :
    (op_88 step c pins).isSome = (op_88 step (w65816_init false).1 0).isSome := by
  unfold op_88
  split <;> first | exact Eq.refl true | exact Eq.refl false

theorem op_88_live (step : Nat) (c : w65816_t) (pins : Nat) (r : w65816_t × Nat)
    (h : op_88 step c pins = some r) :
    r.1.bcd_enabled = c.bcd_enabled ∧
    (sync_out r.2 = true ∨
      (r.1.IR = c.IR ∧ step + 1 < 8 ∧ (op_88 (step + 1) (w65816_init false).1 0).isSome = true) ∨
      ((r.1.IR = (c.IR + 0) % 65536 ∨ r.1.IR = (c.IR + 1) % 65536) ∧ step + 2 < 8 ∧
        (op_88 (step + 1) (w65816_init false).1 0).isSome = true ∧ (op_88 (step + 2) (w65816_init false).1 0).isSome = true)) := by
  unfold op_88 at h
  split at h
  case h_3 => exact Option.noConfusion h
  all_goals cases h
  all_goals refine ⟨(by
    first
    | (dsimp only [set_Y, _NZ] <;>
       repeat' (first | apply ite_bcd_of | apply ite_fst_bcd_of | rfl))
    | rfl), ?_⟩
  case h_2 => exact Or.inl (fetch_sync _ _)
  all_goals exact Or.inr (Or.inl ⟨(by
    first
    | (dsimp only [set_Y, _NZ] <;>
       repeat' (first | apply ite_IR_of | apply ite_fst_IR_of | rfl))
    | rfl), by decide, Eq.refl true⟩)

theorem op_89_isSome (step : Nat) (c : w65816_t) (pins : Nat) :
    (op_89 step c pins).isSome = (op_89 step (w65816_init false).1 0).isSome := by
  unfold op_89
  split <;> first | exact Eq.refl true | exact Eq.refl false

theorem op_89_live (step : Nat) (c : w65816_t) (pins : Nat) (r : w65816_t × Nat)
    (h : op_89 step c pins = some r) :
    r.1.bcd_enabled = c.bcd_enabled ∧
    (sync_out r.2 = true ∨
      (r.1.IR = c.IR ∧ step + 1 < 8 ∧ (op_89 (step + 1) (w65816_init false).1 0).isSome = true) ∨
      ((r.1.IR = (c.IR + 0) % 65536 ∨ r.1.IR = (c.IR + 1) % 65536) ∧ step + 2 < 8 ∧
        (op_89 (step + 1) (w65816_init false).1 0).isSome = true ∧ (op_89 (step + 2) (w65816_init false).1 0).isSome = true)) := by
  unfold op_89 at h
  split at h
  case h_3 => exact Option.noConfusion h
  all_goals cases h
  all_goals refine ⟨(by
    first
    | (dsimp only [] <;>
       repeat' (first | apply ite_bcd_of | apply ite_fst_bcd_of | apply bit_bcd_of | rfl))
    | rfl), ?_⟩
  case h_2 => exact Or.inl (fetch_sync _ _)
  all_goals exact Or.inr (Or.inl ⟨(by
    first
    | (dsimp only [] <;>
       repeat' (first | apply ite_IR_of | apply ite_fst_IR_of | apply bit_IR_of | rfl))
    | rfl), by decide, Eq.refl true⟩)

theorem op_8A_isSome (step : Nat) (c : w65816_t) (pins : Nat) :
    (op_8A step c pins).isSome = (op_8A step (w65816_init false).1 0).isSome := by
  unfold op_8A
  split <;> first | exact Eq.refl true | exact Eq.refl false

theorem op_8A_live (step : Nat) (c : w65816_t) (pins : Nat) (r : w65816_t × Nat)
    (h : op_8A step c pins = some r) :
    r.1.bcd_enabled = c.bcd_enabled ∧
    (sync_out r.2 = true ∨
      (r.1.IR = c.IR ∧ step + 1 < 8 ∧ (op_8A (step + 1) (w65816_init false).1 0).isSome = true) ∨
      ((r.1.IR = (c.IR + 0) % 65536 ∨ r.1.IR = (c.IR + 1) % 65536) ∧ step + 2 < 8 ∧
        (op_8A (step + 1) (w65816_init false).1 0).isSome = true ∧ (op_8A (step + 2) (w65816_init false).1 0).isSome = true)) := by
  unfold op_8A at h
  split at h
  case h_3 => exact Option.noConfusion h
  all_goals cases h
  all_goals refine ⟨(by
    first
    | (dsimp only [set_A, _NZ] <;>
       repeat' (first | apply ite_bcd_of | apply ite_fst_bcd_of | rfl))
    | rfl), ?_⟩
  case h_2 => exact Or.inl (fetch_sync _ _)
  all_goals exact Or.inr (Or.inl ⟨(by
    first
    | (dsimp only [set_A, _NZ] <;>
       repeat' (first | apply ite_IR_of | apply ite_fst_IR_of | rfl))
    | rfl), by decide, Eq.refl true⟩)

theorem op_8B_isSome (step : Nat) (c : w65816_t) (pins : Nat) :
    (op_8B step c pins).isSome = (op_8B step (w65816_init false).1 0).isSome := by
  unfold op_8B
  split <;> first | exact Eq.refl true | exact Eq.refl false

theorem op_8B_live (step : Nat) (c : w65816_t) (pins : Nat) (r : w65816_t × Nat)
    (h : op_8B step c pins = some r) :
    r.1.bcd_enabled = c.bcd_enabled ∧
    (sync_out r.2 = true ∨
      (r.1.IR = c.IR ∧ step + 1 < 8 ∧ (op_8B (step + 1) (w65816_init false).1 0).isSome = true) ∨
      ((r.1.IR = (c.IR + 0) % 65536 ∨ r.1.IR = (c.IR + 1) % 65536) ∧ step + 2 < 8 ∧
        (op_8B (step + 1) (w65816_init false).1 0).isSome = true ∧ (op_8B (step + 2) (w65816_init false).1 0).isSome = true)) := by
  unfold op_8B at h
  split at h
  case h_4 => exact Option.noConfusion h
  all_goals cases h
  all_goals refine ⟨(by
    first
    | (dsimp only [set_S] <;>
       repeat' (first | apply ite_bcd_of | apply ite_fst_bcd_of | rfl))
    | rfl), ?_⟩
  case h_3 => exact Or.inl (fetch_sync _ _)
  all_goals exact Or.inr (Or.inl ⟨(by
    first
    | (dsimp only [set_S] <;>
       repeat' (first | apply ite_IR_of | apply ite_fst_IR_of | rfl))
    | rfl), by decide, Eq.refl true⟩)

theorem op_8C_isSome (step : Nat) (c : w65816_t) (pins : Nat) :
    (op_8C step c pins).isSome = (op_8C step (w65816_init false).1 0).isSome := by
  unfold op_8C
  split <;> first | exact Eq.refl true | exact Eq.refl false

theorem op_8C_live (step : Nat) (c : w65816_t) (pins : Nat) (r : w65816_t × Nat)
    (h : op_8C step c pins = some r) :
    r.1.bcd_enabled = c.bcd_enabled ∧
    (sync_out r.2 = true ∨
      (r.1.IR = c.IR ∧ step + 1 < 8 ∧ (op_8C (step + 1) (w65816_init false).1 0).isSome = true) ∨
      ((r.1.IR = (c.IR + 0) % 65536 ∨ r.1.IR = (c.IR + 1) % 65536) ∧ step + 2 < 8 ∧
        (op_8C (step + 1) (w65816_init false).1 0).isSome = true ∧ (op_8C (step + 2) (w65816_init false).1 0).isSome = true)) := by
  unfold op_8C at h
  split at h
  case h_6 => exact Option.noConfusion h
  all_goals cases h
  all_goals refine ⟨(by
    first
    | (dsimp only [] <;>
       repeat' (first | apply ite_bcd_of | apply ite_fst_bcd_of | rfl))
    | rfl), ?_⟩
  case h_5 => exact Or.inl (fetch_sync _ _)
  all_goals exact Or.inr (Or.inl ⟨(by
    first
    | (dsimp only [] <;>
       repeat' (first | apply ite_IR_of | apply ite_fst_IR_of | rfl))
    | rfl), by decide, Eq.refl true⟩)

theorem op_8D_isSome (step : Nat) (c : w65816_t) (pins : Nat) :
    (op_8D step c pins).isSome = (op_8D step (w65816_init false).1 0).isSome := by
  unfold op_8D
  split <;> first | exact Eq.refl true | exact Eq.refl false

theorem op_8D_live (step : Nat) (c : w65816_t) (pins : Nat) (r : w65816_t × Nat)
    (h : op_8D step c pins = some r) :
    r.1.bcd_enabled = c.bcd_enabled ∧
    (sync_out r.2 = true ∨
      (r.1.IR = c.IR ∧ step + 1 < 8 ∧ (op_8D (step + 1) (w65816_init false).1 0).isSome = true) ∨
      ((r.1.IR = (c.IR + 0) % 65536 ∨ r.1.IR = (c.IR + 1) % 65536) ∧ step + 2 < 8 ∧
        (op_8D (step + 1) (w65816_init false).1 0).isSome = true ∧ (op_8D (step + 2) (w65816_init false).1 0).isSome = true)) := by
  unfold op_8D at h
  split at h
  case h_6 => exact Option.noConfusion h
  all_goals cases h
  all_goals refine ⟨(by
    first
    | (dsimp only [] <;>
       repeat' (first | apply ite_bcd_of | apply ite_fst_bcd_of | rfl))
    | rfl), ?_⟩
  case h_5 => exact Or.inl (fetch_sync _ _)
  all_goals exact Or.inr (Or.inl ⟨(by
    first
    | (dsimp only [] <;>
       repeat' (first | apply ite_IR_of | apply ite_fst_IR_of | rfl))
    | rfl), by decide, Eq.refl true⟩)

theorem op_8E_isSome (step : Nat) (c : w65816_t) (pins : Nat) :
    (op_8E step c pins).isSome = (op_8E step (w65816_init false).1 0).isSome := by
  unfold op_8E
  split <;> first | exact Eq.refl true | exact Eq.refl false

theorem op_8E_live (step : Nat) (c : w65816_t) (pins : Nat) (r : w65816_t × Nat)
    (h : op_8E step c pins = some r) :
    r.1.bcd_enabled = c.bcd_enabled ∧
    (sync_out r.2 = true ∨
      (r.1.IR = c.IR ∧ step + 1 < 8 ∧ (op_8E (step + 1) (w65816_init false).1 0).isSome = true) ∨
      ((r.1.IR = (c.IR + 0) % 65536 ∨ r.1.IR = (c.IR + 1) % 65536) ∧ step + 2 < 8 ∧
        (op_8E (step + 1) (w65816_init false).1 0).isSome = true ∧ (op_8E (step + 2) (w65816_init false).1 0).isSome = true)) := by
  unfold op_8E at h
  split at h
  case h_6 => exact Option.noConfusion h
  all_goals cases h
  all_goals refine ⟨(by
    first
    | (dsimp only [] <;>
       repeat' (first | apply ite_bcd_of | apply ite_fst_bcd_of | rfl))
    | rfl), ?_⟩
  case h_5 => exact Or.inl (fetch_sync _ _)
  all_goals exact Or.inr (Or.inl ⟨(by
    first
    | (dsimp only [] <;>
       repeat' (first | apply ite_IR_of | apply ite_fst_IR_of | rfl))
    | rfl), by decide, Eq.refl true⟩)

theorem op_8F_isSome (step : Nat) (c : w65816_t) (pins : Nat) :
    (op_8F step c pins).isSome = (op_8F step (w65816_init false).1 0).isSome := by
  unfold op_8F
  split <;> first | exact Eq.refl true | exact Eq.refl false

theorem op_8F_live (step : Nat) (c : w65816_t) (pins : Nat) (r : w65816_t × Nat)
    (h : op_8F step c pins = some r) :
    r.1.bcd_enabled = c.bcd_enabled ∧
    (sync_out r.2 = true ∨
      (r.1.IR = c.IR ∧ step + 1 < 8 ∧ (op_8F (step + 1) (w65816_init false).1 0).isSome = true) ∨
      ((r.1.IR = (c.IR + 0) % 65536 ∨ r.1.IR = (c.IR + 1) % 65536) ∧ step + 2 < 8 ∧
        (op_8F (step + 1) (w65816_init false).1 0).isSome = true ∧ (op_8F (step + 2) (w65816_init false).1 0).isSome = true)) := by
  unfold op_8F at h
  split at h
  case h_4 => exact Option.noConfusion h
  all_goals cases h
  all_goals refine ⟨(by
    first
    | (dsimp only [] <;>
       repeat' (first | apply ite_bcd_of | apply ite_fst_bcd_of | rfl))
    | rfl), ?_⟩
  case h_3 => exact Or.inl (fetch_sync _ _)
  all_goals exact Or.inr (Or.inl ⟨(by
    first
    | (dsimp only [] <;>
       repeat' (first | apply ite_IR_of | apply ite_fst_IR_of | rfl))
    | rfl), by decide, Eq.refl true⟩)

theorem op_90_isSome (step : Nat) (c : w65816_t) (pins : Nat) :
    (op_90 step c pins).isSome = (op_90 step (w65816_init false).1 0).isSome := by
  unfold op_90
  split <;> first | exact Eq.refl true | exact Eq.refl false

theorem op_90_live (step : Nat) (c : w65816_t) (pins : Nat) (r : w65816_t × Nat)
    (h : op_90 step c pins = some r) :
    r.1.bcd_enabled = c.bcd_enabled ∧
    (sync_out r.2 = true ∨
      (r.1.IR = c.IR ∧ step + 1 < 8 ∧ (op_90 (step + 1) (w65816_init false).1 0).isSome = true) ∨
      ((r.1.IR = (c.IR + 0) % 65536 ∨ r.1.IR = (c.IR + 1) % 65536) ∧ step + 2 < 8 ∧
        (op_90 (step + 1) (w65816_init false).1 0).isSome = true ∧ (op_90 (step + 2) (w65816_init false).1 0).isSome = true)) := by
  unfold op_90 at h
  split at h
  case h_5 => exact Option.noConfusion h
  all_goals cases h
  all_goals refine ⟨(by
    first
    | (dsimp only [] <;>
       repeat' (first | apply ite_bcd_of | apply ite_fst_bcd_of | rfl))
    | rfl), ?_⟩
  case h_4 => exact Or.inl (fetch_sync _ _)
  all_goals exact Or.inr (Or.inl ⟨(by
    first
    | (dsimp only [] <;>
       repeat' (first | apply ite_IR_of | apply ite_fst_IR_of | rfl))
    | rfl), by decide, Eq.refl true⟩)

theorem op_91_isSome (step : Nat) (c : w65816_t) (pins : Nat) :
    (op_91 step c pins).isSome = (op_91 step (w65816_init false).1 0).isSome := by
  unfold op_91
  split <;> first | exact Eq.refl true | exact Eq.refl false

theorem op_91_live (step : Nat) (c : w65816_t) (pins : Nat) (r : w65816_t × Nat)
    (h : op_91 step c pins = some r) :
    r.1.bcd_enabled = c.bcd_enabled ∧
    (sync_out r.2 = true ∨
      (r.1.IR = c.IR ∧ step + 1 < 8 ∧ (op_91 (step + 1) (w65816_init false).1 0).isSome = true) ∨
      ((r.1.IR = (c.IR + 0) % 65536 ∨ r.1.IR = (c.IR + 1) % 65536) ∧ step + 2 < 8 ∧
        (op_91 (step + 1) (w65816_init false).1 0).isSome = true ∧ (op_91 (step + 2) (w65816_init false).1 0).isSome = true)) := by
  unfold op_91 at h
  split at h
  case h_8 => exact Option.noConfusion h
  all_goals cases h
  all_goals refine ⟨(by
    first
    | (dsimp only [] <;>
       repeat' (first | apply ite_bcd_of | apply ite_fst_bcd_of | rfl))
    | rfl), ?_⟩
  case h_7 => exact Or.inl (fetch_sync _ _)
  all_goals exact Or.inr (Or.inl ⟨(by
    first
    | (dsimp only [] <;>
       repeat' (first | apply ite_IR_of | apply ite_fst_IR_of | rfl))
    | rfl), by decide, Eq.refl true⟩)

theorem op_92_isSome (step : Nat) (c : w65816_t) (pins : Nat) :
    (op_92 step c pins).isSome = (op_92 step (w65816_init false).1 0).isSome := by
  unfold op_92
  split <;> first | exact Eq.refl true | exact Eq.refl false

theorem op_92_live (step : Nat) (c : w65816_t) (pins : Nat) (r : w65816_t × Nat)
    (h : op_92 step c pins = some r) :
    r.1.bcd_enabled = c.bcd_enabled ∧
    (sync_out r.2 = true ∨
      (r.1.IR = c.IR ∧ step + 1 < 8 ∧ (op_92 (step + 1) (w65816_init false).1 0).isSome = true) ∨
      ((r.1.IR = (c.IR + 0) % 65536 ∨ r.1.IR = (c.IR + 1) % 65536) ∧ step + 2 < 8 ∧
        (op_92 (step + 1) (w65816_init false).1 0).isSome = true ∧ (op_92 (step + 2) (w65816_init false).1 0).isSome = true)) := by
  unfold op_92 at h
  split at h
  case h_4 => exact Option.noConfusion h
  all_goals cases h
  all_goals refine ⟨(by
    first
    | (dsimp only [] <;>
       repeat' (first | apply ite_bcd_of | apply ite_fst_bcd_of | rfl))
    | rfl), ?_⟩
  case h_3 => exact Or.inl (fetch_sync _ _)
  all_goals exact Or.inr (Or.inl ⟨(by
    first
    | (dsimp only [] <;>
       repeat' (first | apply ite_IR_of | apply ite_fst_IR_of | rfl))
    | rfl), by decide, Eq.refl true⟩)

theorem op_93_isSome (step : Nat) (c : w65816_t) (pins : Nat) :
    (op_93 step c pins).isSome = (op_93 step (w65816_init false).1 0).isSome := by
  unfold op_93
  split <;> first | exact Eq.refl true | exact Eq.refl false

theorem op_93_live (step : Nat) (c : w65816_t) (pins : Nat) (r : w65816_t × Nat)
    (h : op_93 step c pins = some r) :
    r.1.bcd_enabled = c.bcd_enabled ∧
    (sync_out r.2 = true ∨
      (r.1.IR = c.IR ∧ step + 1 < 8 ∧ (op_93 (step + 1) (w65816_init false).1 0).isSome = true) ∨
      ((r.1.IR = (c.IR + 0) % 65536 ∨ r.1.IR = (c.IR + 1) % 65536) ∧ step + 2 < 8 ∧
        (op_93 (step + 1) (w65816_init false).1 0).isSome = true ∧ (op_93 (step + 2) (w65816_init false).1 0).isSome = true)) := by
  unfold op_93 at h
  split at h
  case h_4 => exact Option.noConfusion h
  all_goals cases h
  all_goals refine ⟨(by
    first
    | (dsimp only [] <;>
       repeat' (first | apply ite_bcd_of | apply ite_fst_bcd_of | rfl))
    | rfl), ?_⟩
  case h_3 => exact Or.inl (fetch_sync _ _)
  all_goals exact Or.inr (Or.inl ⟨(by
    first
    | (dsimp only [] <;>
       repeat' (first | apply ite_IR_of | apply ite_fst_IR_of | rfl))
    | rfl), by decide, Eq.refl true⟩)

theorem op_94_isSome (step : Nat) (c : w65816_t) (pins : Nat) :
    (op_94 step c pins).isSome = (op_94 step (w65816_init false).1 0).isSome := by
  unfold op_94
  split <;> first | exact Eq.refl true | exact Eq.refl false

theorem op_94_live (step : Nat) (c : w65816_t) (pins : Nat) (r : w65816_t × Nat)
    (h : op_94 step c pins = some r) :
    r.1.bcd_enabled = c.bcd_enabled ∧
    (sync_out r.2 = true ∨
      (r.1.IR = c.IR ∧ step + 1 < 8 ∧ (op_94 (step + 1) (w65816_init false).1 0).isSome = true) ∨
      ((r.1.IR = (c.IR + 0) % 65536 ∨ r.1.IR = (c.IR + 1) % 65536) ∧ step + 2 < 8 ∧
        (op_94 (step + 1) (w65816_init false).1 0).isSome = true ∧ (op_94 (step + 2) (w65816_init false).1 0).isSome = true)) := by
  unfold op_94 at h
  split at h
  case h_6 => exact Option.noConfusion h
  all_goals cases h
  all_goals refine ⟨(by
    first
    | (dsimp only [] <;>
       repeat' (first | apply ite_bcd_of | apply ite_fst_bcd_of | rfl))
    | rfl), ?_⟩
  case h_5 => exact Or.inl (fetch_sync _ _)
  all_goals exact Or.inr (Or.inl ⟨(by
    first
    | (dsimp only [] <;>
       repeat' (first | apply ite_IR_of | apply ite_fst_IR_of | rfl))
    | rfl), by decide, Eq.refl true⟩)

theorem op_95_isSome (step : Nat) (c : w65816_t) (pins : Nat) :
    (op_95 step c pins).isSome = (op_95 step (w65816_init false).1 0).isSome := by
  unfold op_95
  split <;> first | exact Eq.refl true | exact Eq.refl false

theorem op_95_live (step : Nat) (c : w65816_t) (pins : Nat) (r : w65816_t × Nat)
    (h : op_95 step c pins = some r) :
    r.1.bcd_enabled = c.bcd_enabled ∧
    (sync_out r.2 = true ∨
      (r.1.IR = c.IR ∧ step + 1 < 8 ∧ (op_95 (step + 1) (w65816_init false).1 0).isSome = true) ∨
      ((r.1.IR = (c.IR + 0) % 65536 ∨ r.1.IR = (c.IR + 1) % 65536) ∧ step + 2 < 8 ∧
        (op_95 (step + 1) (w65816_init false).1 0).isSome = true ∧ (op_95 (step + 2) (w65816_init false).1 0).isSome = true)) := by
  unfold op_95 at h
  split at h
  case h_6 => exact Option.noConfusion h
  all_goals cases h
  all_goals refine ⟨(by
    first
    | (dsimp only [] <;>
       repeat' (first | apply ite_bcd_of | apply ite_fst_bcd_of | rfl))
    | rfl), ?_⟩
  case h_5 => exact Or.inl (fetch_sync _ _)
  all_goals exact Or.inr (Or.inl ⟨(by
    first
    | (dsimp only [] <;>
       repeat' (first | apply ite_IR_of | apply ite_fst_IR_of | rfl))
    | rfl), by decide, Eq.refl true⟩)

theorem op_96_isSome (step : Nat) (c : w65816_t) (pins : Nat) :
    (op_96 step c pins).isSome = (op_96 step (w65816_init false).1 0).isSome := by
  unfold op_96
  split <;> first | exact Eq.refl true | exact Eq.refl false

theorem op_96_live (step : Nat) (c : w65816_t) (pins : Nat) (r : w65816_t × Nat)
    (h : op_96 step c pins = some r) :
    r.1.bcd_enabled = c.bcd_enabled ∧
    (sync_out r.2 = true ∨
      (r.1.IR = c.IR ∧ step + 1 < 8 ∧ (op_96 (step + 1) (w65816_init false).1 0).isSome = true) ∨
      ((r.1.IR = (c.IR + 0) % 65536 ∨ r.1.IR = (c.IR + 1) % 65536) ∧ step + 2 < 8 ∧
        (op_96 (step + 1) (w65816_init false).1 0).isSome = true ∧ (op_96 (step + 2) (w65816_init false).1 0).isSome = true)) := by
  unfold op_96 at h
  split at h
  case h_6 => exact Option.noConfusion h
  all_goals cases h
  all_goals refine ⟨(by
    first
    | (dsimp only [] <;>
       repeat' (first | apply ite_bcd_of | apply ite_fst_bcd_of | rfl))
    | rfl), ?_⟩
  case h_5 => exact Or.inl (fetch_sync _ _)
  all_goals exact Or.inr (Or.inl ⟨(by
    first
    | (dsimp only [] <;>
       repeat' (first | apply ite_IR_of | apply ite_fst_IR_of | rfl))
    | rfl), by decide, Eq.refl true⟩)

theorem op_97_isSome (step : Nat) (c : w65816_t) (pins : Nat) :
    (op_97 step c pins).isSome = (op_97 step (w65816_init false).1 0).isSome := by
  unfold op_97
  split <;> first | exact Eq.refl true | exact Eq.refl false

theorem op_97_live (step : Nat) (c : w65816_t) (pins : Nat) (r : w65816_t × Nat)
    (h : op_97 step c pins = some r) :
    r.1.bcd_enabled = c.bcd_enabled ∧
    (sync_out r.2 = true ∨
      (r.1.IR = c.IR ∧ step + 1 < 8 ∧ (op_97 (step + 1) (w65816_init false).1 0).isSome = true) ∨
      ((r.1.IR = (c.IR + 0) % 65536 ∨ r.1.IR = (c.IR + 1) % 65536) ∧ step + 2 < 8 ∧
        (op_97 (step + 1) (w65816_init false).1 0).isSome = true ∧ (op_97 (step + 2) (w65816_init false).1 0).isSome = true)) := by
  unfold op_97 at h
  split at h
  case h_4 => exact Option.noConfusion h
  all_goals cases h
  all_goals refine ⟨(by
    first
    | (dsimp only [] <;>
       repeat' (first | apply ite_bcd_of | apply ite_fst_bcd_of | rfl))
    | rfl), ?_⟩
  case h_3 => exact Or.inl (fetch_sync _ _)
  all_goals exact Or.inr (Or.inl ⟨(by
    first
    | (dsimp only [] <;>
       repeat' (first | apply ite_IR_of | apply ite_fst_IR_of | rfl))
    | rfl), by decide, Eq.refl true⟩)

theorem op_98_isSome (step : Nat) (c : w65816_t) (pins : Nat) :
    (op_98 step c pins).isSome = (op_98 step (w65816_init false).1 0).isSome := by
  unfold op_98
  split <;> first | exact Eq.refl true | exact Eq.refl false

theorem op_98_live (step : Nat) (c : w65816_t) (pins : Nat) (r : w65816_t × Nat)
    (h : op_98 step c pins = some r) :
    r.1.bcd_enabled = c.bcd_enabled ∧
    (sync_out r.2 = true ∨
      (r.1.IR = c.IR ∧ step + 1 < 8 ∧ (op_98 (step + 1) (w65816_init false).1 0).isSome = true) ∨
      ((r.1.IR = (c.IR + 0) % 65536 ∨ r.1.IR = (c.IR + 1) % 65536) ∧ step + 2 < 8 ∧
        (op_98 (step + 1) (w65816_init false).1 0).isSome = true ∧ (op_98 (step + 2) (w65816_init false).1 0).isSome = true)) := by
  unfold op_98 at h
  split at h
  case h_3 => exact Option.noConfusion h
  all_goals cases h
  all_goals refine ⟨(by
    first
    | (dsimp only [set_A, _NZ] <;>
       repeat' (first | apply ite_bcd_of | apply ite_fst_bcd_of | rfl))
    | rfl), ?_⟩
  case h_2 => exact Or.inl (fetch_sync _ _)
  all_goals exact Or.inr (Or.inl ⟨(by
    first
    | (dsimp only [set_A, _NZ] <;>
       repeat' (first | apply ite_IR_of | apply ite_fst_IR_of | rfl))
    | rfl), by decide, Eq.refl true⟩)

theorem op_99_isSome (step : Nat) (c : w65816_t) (pins : Nat) :
    (op_99 step c pins).isSome = (op_99 step (w65816_init false).1 0).isSome := by
  unfold op_99
  split <;> first | exact Eq.refl true | exact Eq.refl false

theorem op_99_live (step : Nat) (c : w65816_t) (pins : Nat) (r : w65816_t × Nat)
    (h : op_99 step c pins = some r) :
    r.1.bcd_enabled = c.bcd_enabled ∧
    (sync_out r.2 = true ∨
      (r.1.IR = c.IR ∧ step + 1 < 8 ∧ (op_99 (step + 1) (w65816_init false).1 0).isSome = true) ∨
      ((r.1.IR = (c.IR + 0) % 65536 ∨ r.1.IR = (c.IR + 1) % 65536) ∧ step + 2 < 8 ∧
        (op_99 (step + 1) (w65816_init false).1 0).isSome = true ∧ (op_99 (step + 2) (w65816_init false).1 0).isSome = true)) := by
  unfold op_99 at h
  split at h
  case h_7 => exact Option.noConfusion h
  all_goals cases h
  all_goals refine ⟨(by
    first
    | (dsimp only [] <;>
       repeat' (first | apply ite_bcd_of | apply ite_fst_bcd_of | rfl))
    | rfl), ?_⟩
  case h_6 => exact Or.inl (fetch_sync _ _)
  all_goals exact Or.inr (Or.inl ⟨(by
    first
    | (dsimp only [] <;>
       repeat' (first | apply ite_IR_of | apply ite_fst_IR_of | rfl))
    | rfl), by decide, Eq.refl true⟩)

theorem op_9A_isSome (step : Nat) (c : w65816_t) (pins : Nat) :
    (op_9A step c pins).isSome = (op_9A step (w65816_init false).1 0).isSome := by
  unfold op_9A
  split <;> first | exact Eq.refl true | exact Eq.refl false

theorem op_9A_live (step : Nat) (c : w65816_t) (pins : Nat) (r : w65816_t × Nat)
    (h : op_9A step c pins = some r) :
    r.1.bcd_enabled = c.bcd_enabled ∧
    (sync_out r.2 = true ∨
      (r.1.IR = c.IR ∧ step + 1 < 8 ∧ (op_9A (step + 1) (w65816_init false).1 0).isSome = true) ∨
      ((r.1.IR = (c.IR + 0) % 65536 ∨ r.1.IR = (c.IR + 1) % 65536) ∧ step + 2 < 8 ∧
        (op_9A (step + 1) (w65816_init false).1 0).isSome = true ∧ (op_9A (step + 2) (w65816_init false).1 0).isSome = true)) := by
  unfold op_9A at h
  split at h
  case h_3 => exact Option.noConfusion h
  all_goals cases h
  all_goals refine ⟨(by
    first
    | (dsimp only [set_S] <;>
       repeat' (first | apply ite_bcd_of | apply ite_fst_bcd_of | rfl))
    | rfl), ?_⟩
  case h_2 => exact Or.inl (fetch_sync _ _)
  all_goals exact Or.inr (Or.inl ⟨(by
    first
    | (dsimp only [set_S] <;>
       repeat' (first | apply ite_IR_of | apply ite_fst_IR_of | rfl))
    | rfl), by decide, Eq.refl true⟩)

theorem op_9B_isSome (step : Nat) (c : w65816_t) (pins : Nat) :
    (op_9B step c pins).isSome = (op_9B step (w65816_init false).1 0).isSome := by
  unfold op_9B
  split <;> first | exact Eq.refl true | exact Eq.refl false

theorem op_9B_live (step : Nat) (c : w65816_t) (pins : Nat) (r : w65816_t × Nat)
    (h : op_9B step c pins = some r) :
    r.1.bcd_enabled = c.bcd_enabled ∧
    (sync_out r.2 = true ∨
      (r.1.IR = c.IR ∧ step + 1 < 8 ∧ (op_9B (step + 1) (w65816_init false).1 0).isSome = true) ∨
      ((r.1.IR = (c.IR + 0) % 65536 ∨ r.1.IR = (c.IR + 1) % 65536) ∧ step + 2 < 8 ∧
        (op_9B (step + 1) (w65816_init false).1 0).isSome = true ∧ (op_9B (step + 2) (w65816_init false).1 0).isSome = true)) := by
  unfold op_9B at h
  split at h
  case h_3 => exact Option.noConfusion h
  all_goals cases h
  all_goals refine ⟨(by
    first
    | (dsimp only [set_Y, _NZ] <;>
       repeat' (first | apply ite_bcd_of | apply ite_fst_bcd_of | rfl))
    | rfl), ?_⟩
  case h_2 => exact Or.inl (fetch_sync _ _)
  all_goals exact Or.inr (Or.inl ⟨(by
    first
    | (dsimp only [set_Y, _NZ] <;>
       repeat' (first | apply ite_IR_of | apply ite_fst_IR_of | rfl))
    | rfl), by decide, Eq.refl true⟩)

theorem op_9C_isSome (step : Nat) (c : w65816_t) (pins : Nat) :
    (op_9C step c pins).isSome = (op_9C step (w65816_init false).1 0).isSome := by
  unfold op_9C
  split <;> first | exact Eq.refl true | exact Eq.refl false

theorem op_9C_live (step : Nat) (c : w65816_t) (pins : Nat) (r : w65816_t × Nat)
    (h : op_9C step c pins = some r) :
    r.1.bcd_enabled = c.bcd_enabled ∧
    (sync_out r.2 = true ∨
      (r.1.IR = c.IR ∧ step + 1 < 8 ∧ (op_9C (step + 1) (w65816_init false).1 0).isSome = true) ∨
      ((r.1.IR = (c.IR + 0) % 65536 ∨ r.1.IR = (c.IR + 1) % 65536) ∧ step + 2 < 8 ∧
        (op_9C (step + 1) (w65816_init false).1 0).isSome = true ∧ (op_9C (step + 2) (w65816_init false).1 0).isSome = true)) := by
  unfold op_9C at h
  split at h
  case h_6 => exact Option.noConfusion h
  all_goals cases h
  all_goals refine ⟨(by
    first
    | (dsimp only [] <;>
       repeat' (first | apply ite_bcd_of | apply ite_fst_bcd_of | rfl))
    | rfl), ?_⟩
  case h_5 => exact Or.inl (fetch_sync _ _)
  all_goals exact Or.inr (Or.inl ⟨(by
    first
    | (dsimp only [] <;>
       repeat' (first | apply ite_IR_of | apply ite_fst_IR_of | rfl))
    | rfl), by decide, Eq.refl true⟩)

theorem op_9D_isSome (step : Nat) (c : w65816_t) (pins : Nat) :
    (op_9D step c pins).isSome = (op_9D step (w65816_init false).1 0).isSome := by
  unfold op_9D
  split <;> first | exact Eq.refl true | exact Eq.refl false

theorem op_9D_live (step : Nat) (c : w65816_t) (pins : Nat) (r : w65816_t × Nat)
    (h : op_9D step c pins = some r) :
    r.1.bcd_enabled = c.bcd_enabled ∧
    (sync_out r.2 = true ∨
      (r.1.IR = c.IR ∧ step + 1 < 8 ∧ (op_9D (step + 1) (w65816_init false).1 0).isSome = true) ∨
      ((r.1.IR = (c.IR + 0) % 65536 ∨ r.1.IR = (c.IR + 1) % 65536) ∧ step + 2 < 8 ∧
        (op_9D (step + 1) (w65816_init false).1 0).isSome = true ∧ (op_9D (step + 2) (w65816_init false).1 0).isSome = true)) := by
  unfold op_9D at h
  split at h
  case h_7 => exact Option.noConfusion h
  all_goals cases h
  all_goals refine ⟨(by
    first
    | (dsimp only [] <;>
       repeat' (first | apply ite_bcd_of | apply ite_fst_bcd_of | rfl))
    | rfl), ?_⟩
  case h_6 => exact Or.inl (fetch_sync _ _)
  all_goals exact Or.inr (Or.inl ⟨(by
    first
    | (dsimp only [] <;>
       repeat' (first | apply ite_IR_of | apply ite_fst_IR_of | rfl))
    | rfl), by decide, Eq.refl true⟩)

theorem op_9E_isSome (step : Nat) (c : w65816_t) (pins : Nat) :
    (op_9E step c pins).isSome = (op_9E step (w65816_init false).1 0).isSome := by
  unfold op_9E
  split <;> first | exact Eq.refl true | exact Eq.refl false

theorem op_9E_live (step : Nat) (c : w65816_t) (pins : Nat) (r : w65816_t × Nat)
    (h : op_9E step c pins = some r) :
    r.1.bcd_enabled = c.bcd_enabled ∧
    (sync_out r.2 = true ∨
      (r.1.IR = c.IR ∧ step + 1 < 8 ∧ (op_9E (step + 1) (w65816_init false).1 0).isSome = true) ∨
      ((r.1.IR = (c.IR + 0) % 65536 ∨ r.1.IR = (c.IR + 1) % 65536) ∧ step + 2 < 8 ∧
        (op_9E (step + 1) (w65816_init false).1 0).isSome = true ∧ (op_9E (step + 2) (w65816_init false).1 0).isSome = true)) := by
  unfold op_9E at h
  split at h
  case h_7 => exact Option.noConfusion h
  all_goals cases h
  all_goals refine ⟨(by
    first
    | (dsimp only [] <;>
       repeat' (first | apply ite_bcd_of | apply ite_fst_bcd_of | rfl))
    | rfl), ?_⟩
  case h_6 => exact Or.inl (fetch_sync _ _)
  all_goals exact Or.inr (Or.inl ⟨(by
    first
    | (dsimp only [] <;>
       repeat' (first | apply ite_IR_of | apply ite_fst_IR_of | rfl))
    | rfl), by decide, Eq.refl true⟩)

theorem op_9F_isSome (step : Nat) (c : w65816_t) (pins : Nat) :
    (op_9F step c pins).isSome = (op_9F step (w65816_init false).1 0).isSome := by
  unfold op_9F
  split <;> first | exact Eq.refl true | exact Eq.refl false

theorem op_9F_live (step : Nat) (c : w65816_t) (pins : Nat) (r : w65816_t × Nat)
    (h : op_9F step c pins = some r) :
    r.1.bcd_enabled = c.bcd_enabled ∧
    (sync_out r.2 = true ∨
      (r.1.IR = c.IR ∧ step + 1 < 8 ∧ (op_9F (step + 1) (w65816_init false).1 0).isSome = true) ∨
      ((r.1.IR = (c.IR + 0) % 65536 ∨ r.1.IR = (c.IR + 1) % 65536) ∧ step + 2 < 8 ∧
        (op_9F (step + 1) (w65816_init false).1 0).isSome = true ∧ (op_9F (step + 2) (w65816_init false).1 0).isSome = true)) := by
  unfold op_9F at h
  split at h
  case h_4 => exact Option.noConfusion h
  all_goals cases h
  all_goals refine ⟨(by
    first
    | (dsimp only [] <;>
       repeat' (first | apply ite_bcd_of | apply ite_fst_bcd_of | rfl))
    | rfl), ?_⟩
  case h_3 => exact Or.inl (fetch_sync _ _)
  all_goals exact Or.inr (Or.inl ⟨(by
    first
    | (dsimp only [] <;>
       repeat' (first | apply ite_IR_of | apply ite_fst_IR_of | rfl))
    | rfl), by decide, Eq.refl true⟩)

theorem op_A0_isSome (step : Nat) (c : w65816_t) (pins : Nat) :
    (op_A0 step c pins).isSome = (op_A0 step (w65816_init false).1 0).isSome := by
  unfold op_A0
  split <;> first | exact Eq.refl true | exact Eq.refl false

theorem op_A0_live (step : Nat) (c : w65816_t) (pins : Nat) (r : w65816_t × Nat)
    (h : op_A0 step c pins = some r) :
    r.1.bcd_enabled = c.bcd_enabled ∧
    (sync_out r.2 = true ∨
      (r.1.IR = c.IR ∧ step + 1 < 8 ∧ (op_A0 (step + 1) (w65816_init false).1 0).isSome = true) ∨
      ((r.1.IR = (c.IR + 0) % 65536 ∨ r.1.IR = (c.IR + 1) % 65536) ∧ step + 2 < 8 ∧
        (op_A0 (step + 1) (w65816_init false).1 0).isSome = true ∧ (op_A0 (step + 2) (w65816_init false).1 0).isSome = true)) := by
  unfold op_A0 at h
  split at h
  case h_4 => exact Option.noConfusion h
  all_goals cases h
  all_goals refine ⟨(by
    first
    | (dsimp only [set_Y, set_YH, _NZ, _NZ16] <;>
       repeat' (first | apply ite_bcd_of | apply ite_fst_bcd_of | rfl))
    | rfl), ?_⟩
  case h_3 => exact Or.inl (fetch_sync _ _)
  all_goals exact Or.inr (Or.inl ⟨(by
    first
    | (dsimp only [set_Y, set_YH, _NZ, _NZ16] <;>
       repeat' (first | apply ite_IR_of | apply ite_fst_IR_of | rfl))
    | rfl), by decide, Eq.refl true⟩)

theorem op_A1_isSome (step : Nat) (c : w65816_t) (pins : Nat) :
    (op_A1 step c pins).isSome = (op_A1 step (w65816_init false).1 0).isSome := by
  unfold op_A1
  split <;> first | exact Eq.refl true | exact Eq.refl false

theorem op_A1_live (step : Nat) (c : w65816_t) (pins : Nat) (r : w65816_t × Nat)
    (h : op_A1 step c pins = some r) :
    r.1.bcd_enabled = c.bcd_enabled ∧
    (sync_out r.2 = true ∨
      (r.1.IR = c.IR ∧ step + 1 < 8 ∧ (op_A1 (step + 1) (w65816_init false).1 0).isSome = true) ∨
      ((r.1.IR = (c.IR + 0) % 65536 ∨ r.1.IR = (c.IR + 1) % 65536) ∧ step + 2 < 8 ∧
        (op_A1 (step + 1) (w65816_init false).1 0).isSome = true ∧ (op_A1 (step + 2) (w65816_init false).1 0).isSome = true)) := by
  unfold op_A1 at h
  split at h
  case h_8 => exact Option.noConfusion h
  all_goals cases h
  all_goals refine ⟨(by
    first
    | (dsimp only [set_A, set_B, _NZ, _NZ16] <;>
       repeat' (first | apply ite_bcd_of | apply ite_fst_bcd_of | rfl))
    | rfl), ?_⟩
  case h_7 => exact Or.inl (fetch_sync _ _)
  all_goals exact Or.inr (Or.inl ⟨(by
    first
    | (dsimp only [set_A, set_B, _NZ, _NZ16] <;>
       repeat' (first | apply ite_IR_of | apply ite_fst_IR_of | rfl))
    | rfl), by decide, Eq.refl true⟩)

theorem op_A2_isSome (step : Nat) (c : w65816_t) (pins : Nat) :
    (op_A2 step c pins).isSome = (op_A2 step (w65816_init false).1 0).isSome := by
  unfold op_A2
  split <;> first | exact Eq.refl true | exact Eq.refl false

theorem op_A2_live (step : Nat) (c : w65816_t) (pins : Nat) (r : w65816_t × Nat)
    (h : op_A2 step c pins = some r) :
    r.1.bcd_enabled = c.bcd_enabled ∧
    (sync_out r.2 = true ∨
      (r.1.IR = c.IR ∧ step + 1 < 8 ∧ (op_A2 (step + 1) (w65816_init false).1 0).isSome = true) ∨
      ((r.1.IR = (c.IR + 0) % 65536 ∨ r.1.IR = (c.IR + 1) % 65536) ∧ step + 2 < 8 ∧
        (op_A2 (step + 1) (w65816_init false).1 0).isSome = true ∧ (op_A2 (step + 2) (w65816_init false).1 0).isSome = true)) := by
  unfold op_A2 at h
  split at h
  case h_4 => exact Option.noConfusion h
  all_goals cases h
  all_goals refine ⟨(by
    first
    | (dsimp only [set_X, set_XH, _NZ, _NZ16] <;>
       repeat' (first | apply ite_bcd_of | apply ite_fst_bcd_of | rfl))
    | rfl), ?_⟩
  case h_3 => exact Or.inl (fetch_sync _ _)
  all_goals exact Or.inr (Or.inl ⟨(by
    first
    | (dsimp only [set_X, set_XH, _NZ, _NZ16] <;>
       repeat' (first | apply ite_IR_of | apply ite_fst_IR_of | rfl))
    | rfl), by decide, Eq.refl true⟩)

theorem op_A3_isSome (step : Nat) (c : w65816_t) (pins : Nat) :
    (op_A3 step c pins).isSome = (op_A3 step (w65816_init false).1 0).isSome := by
  unfold op_A3
  split <;> first | exact Eq.refl true | exact Eq.refl false

theorem op_A3_live (step : Nat) (c : w65816_t) (pins : Nat) (r : w65816_t × Nat)
    (h : op_A3 step c pins = some r) :
    r.1.bcd_enabled = c.bcd_enabled ∧
    (sync_out r.2 = true ∨
      (r.1.IR = c.IR ∧ step + 1 < 8 ∧ (op_A3 (step + 1) (w65816_init false).1 0).isSome = true) ∨
      ((r.1.IR = (c.IR + 0) % 65536 ∨ r.1.IR = (c.IR + 1) % 65536) ∧ step + 2 < 8 ∧
        (op_A3 (step + 1) (w65816_init false).1 0).isSome = true ∧ (op_A3 (step + 2) (w65816_init false).1 0).isSome = true)) := by
  unfold op_A3 at h
  split at h
  case h_4 => exact Option.noConfusion h
  all_goals cases h
  all_goals refine ⟨(by
    first
    | (dsimp only [set_A, set_B, _NZ, _NZ16] <;>
       repeat' (first | apply ite_bcd_of | apply ite_fst_bcd_of | rfl))
    | rfl), ?_⟩
  case h_3 => exact Or.inl (fetch_sync _ _)
  all_goals exact Or.inr (Or.inl ⟨(by
    first
    | (dsimp only [set_A, set_B, _NZ, _NZ16] <;>
       repeat' (first | apply ite_IR_of | apply ite_fst_IR_of | rfl))
    | rfl), by decide, Eq.refl true⟩)

theorem op_A4_isSome (step : Nat) (c : w65816_t) (pins : Nat) :
    (op_A4 step c pins).isSome = (op_A4 step (w65816_init false).1 0).isSome := by
  unfold op_A4
  split <;> first | exact Eq.refl true | exact Eq.refl false

theorem op_A4_live (step : Nat) (c : w65816_t) (pins : Nat) (r : w65816_t × Nat)
    (h : op_A4 step c pins = some r) :
    r.1.bcd_enabled = c.bcd_enabled ∧
    (sync_out r.2 = true ∨
      (r.1.IR = c.IR ∧ step + 1 < 8 ∧ (op_A4 (step + 1) (w65816_init false).1 0).isSome = true) ∨
      ((r.1.IR = (c.IR + 0) % 65536 ∨ r.1.IR = (c.IR + 1) % 65536) ∧ step + 2 < 8 ∧
        (op_A4 (step + 1) (w65816_init false).1 0).isSome = true ∧ (op_A4 (step + 2) (w65816_init false).1 0).isSome = true)) := by
  unfold op_A4 at h
  split at h
  case h_5 => exact Option.noConfusion h
  all_goals cases h
  all_goals refine ⟨(by
    first
    | (dsimp only [set_Y, set_YH, _NZ, _NZ16] <;>
       repeat' (first | apply ite_bcd_of | apply ite_fst_bcd_of | rfl))
    | rfl), ?_⟩
  case h_4 => exact Or.inl (fetch_sync _ _)
  all_goals exact Or.inr (Or.inl ⟨(by
    first
    | (dsimp only [set_Y, set_YH, _NZ, _NZ16] <;>
       repeat' (first | apply ite_IR_of | apply ite_fst_IR_of | rfl))
    | rfl), by decide, Eq.refl true⟩)

theorem op_A5_isSome (step : Nat) (c : w65816_t) (pins : Nat) :
    (op_A5 step c pins).isSome = (op_A5 step (w65816_init false).1 0).isSome := by
  unfold op_A5
  split <;> first | exact Eq.refl true | exact Eq.refl false

theorem op_A5_live (step : Nat) (c : w65816_t) (pins : Nat) (r : w65816_t × Nat)
    (h : op_A5 step c pins = some r) :
    r.1.bcd_enabled = c.bcd_enabled ∧
    (sync_out r.2 = true ∨
      (r.1.IR = c.IR ∧ step + 1 < 8 ∧ (op_A5 (step + 1) (w65816_init false).1 0).isSome = true) ∨
      ((r.1.IR = (c.IR + 0) % 65536 ∨ r.1.IR = (c.IR + 1) % 65536) ∧ step + 2 < 8 ∧
        (op_A5 (step + 1) (w65816_init false).1 0).isSome = true ∧ (op_A5 (step + 2) (w65816_init false).1 0).isSome = true)) := by
  unfold op_A5 at h
  split at h
  case h_5 => exact Option.noConfusion h
  all_goals cases h
  all_goals refine ⟨(by
    first
    | (dsimp only [set_A, set_B, _NZ, _NZ16] <;>
       repeat' (first | apply ite_bcd_of | apply ite_fst_bcd_of | rfl))
    | rfl), ?_⟩
  case h_4 => exact Or.inl (fetch_sync _ _)
  all_goals exact Or.inr (Or.inl ⟨(by
    first
    | (dsimp only [set_A, set_B, _NZ, _NZ16] <;>
       repeat' (first | apply ite_IR_of | apply ite_fst_IR_of | rfl))
    | rfl), by decide, Eq.refl true⟩)

theorem op_A6_isSome (step : Nat) (c : w65816_t) (pins : Nat) :
    (op_A6 step c pins).isSome = (op_A6 step (w65816_init false).1 0).isSome := by
  unfold op_A6
  split <;> first | exact Eq.refl true | exact Eq.refl false

theorem op_A6_live (step : Nat) (c : w65816_t) (pins : Nat) (r : w65816_t × Nat)
    (h : op_A6 step c pins = some r) :
    r.1.bcd_enabled = c.bcd_enabled ∧
    (sync_out r.2 = true ∨
      (r.1.IR = c.IR ∧ step + 1 < 8 ∧ (op_A6 (step + 1) (w65816_init false).1 0).isSome = true) ∨
      ((r.1.IR = (c.IR + 0) % 65536 ∨ r.1.IR = (c.IR + 1) % 65536) ∧ step + 2 < 8 ∧
        (op_A6 (step + 1) (w65816_init false).1 0).isSome = true ∧ (op_A6 (step + 2) (w65816_init false).1 0).isSome = true)) := by
  unfold op_A6 at h
  split at h
  case h_5 => exact Option.noConfusion h
  all_goals cases h
  all_goals refine ⟨(by
    first
    | (dsimp only [set_X, set_XH, _NZ, _NZ16] <;>
       repeat' (first | apply ite_bcd_of | apply ite_fst_bcd_of | rfl))
    | rfl), ?_⟩
  case h_4 => exact Or.inl (fetch_sync _ _)
  all_goals exact Or.inr (Or.inl ⟨(by
    first
    | (dsimp only [set_X, set_XH, _NZ, _NZ16] <;>
       repeat' (first | apply ite_IR_of | apply ite_fst_IR_of | rfl))
    | rfl), by decide, Eq.refl true⟩)

theorem op_A7_isSome (step : Nat) (c : w65816_t) (pins : Nat) :
    (op_A7 step c pins).isSome = (op_A7 step (w65816_init false).1 0).isSome := by
  unfold op_A7
  split <;> first | exact Eq.refl true | exact Eq.refl false

theorem op_A7_live (step : Nat) (c : w65816_t) (pins : Nat) (r : w65816_t × Nat)
    (h : op_A7 step c pins = some r) :
    r.1.bcd_enabled = c.bcd_enabled ∧
    (sync_out r.2 = true ∨
      (r.1.IR = c.IR ∧ step + 1 < 8 ∧ (op_A7 (step + 1) (w65816_init false).1 0).isSome = true) ∨
      ((r.1.IR = (c.IR + 0) % 65536 ∨ r.1.IR = (c.IR + 1) % 65536) ∧ step + 2 < 8 ∧
        (op_A7 (step + 1) (w65816_init false).1 0).isSome = true ∧ (op_A7 (step + 2) (w65816_init false).1 0).isSome = true)) := by
  unfold op_A7 at h
  split at h
  case h_4 => exact Option.noConfusion h
  all_goals cases h
  all_goals refine ⟨(by
    first
    | (dsimp only [set_A, set_B, _NZ, _NZ16] <;>
       repeat' (first | apply ite_bcd_of | apply ite_fst_bcd_of | rfl))
    | rfl), ?_⟩
  case h_3 => exact Or.inl (fetch_sync _ _)
  all_goals exact Or.inr (Or.inl ⟨(by
    first
    | (dsimp only [set_A, set_B, _NZ, _NZ16] <;>
       repeat' (first | apply ite_IR_of | apply ite_fst_IR_of | rfl))
    | rfl), by decide, Eq.refl true⟩)

theorem op_A8_isSome (step : Nat) (c : w65816_t) (pins : Nat) :
    (op_A8 step c pins).isSome = (op_A8 step (w65816_init false).1 0).isSome := by
  unfold op_A8
  split <;> first | exact Eq.refl true | exact Eq.refl false

theorem op_A8_live (step : Nat) (c : w65816_t) (pins : Nat) (r : w65816_t × Nat)
    (h : op_A8 step c pins = some r) :
    r.1.bcd_enabled = c.bcd_enabled ∧
    (sync_out r.2 = true ∨
      (r.1.IR = c.IR ∧ step + 1 < 8 ∧ (op_A8 (step + 1) (w65816_init false).1 0).isSome = true) ∨
      ((r.1.IR = (c.IR + 0) % 65536 ∨ r.1.IR = (c.IR + 1) % 65536) ∧ step + 2 < 8 ∧
        (op_A8 (step + 1) (w65816_init false).1 0).isSome = true ∧ (op_A8 (step + 2) (w65816_init false).1 0).isSome = true)) := by
  unfold op_A8 at h
  split at h
  case h_3 => exact Option.noConfusion h
  all_goals cases h
  all_goals refine ⟨(by
    first
    | (dsimp only [set_Y, _NZ] <;>
       repeat' (first | apply ite_bcd_of | apply ite_fst_bcd_of | rfl))
    | rfl), ?_⟩
  case h_2 => exact Or.inl (fetch_sync _ _)
  all_goals exact Or.inr (Or.inl ⟨(by
    first
    | (dsimp only [set_Y, _NZ] <;>
       repeat' (first | apply ite_IR_of | apply ite_fst_IR_of | rfl))
    | rfl), by decide, Eq.refl true⟩)

theorem op_A9_isSome (step : Nat) (c : w65816_t) (pins : Nat) :
    (op_A9 step c pins).isSome = (op_A9 step (w65816_init false).1 0).isSome := by
  unfold op_A9
  split <;> first | exact Eq.refl true | exact Eq.refl false

theorem op_A9_live (step : Nat) (c : w65816_t) (pins : Nat) (r : w65816_t × Nat)
    (h : op_A9 step c pins = some r) :
    r.1.bcd_enabled = c.bcd_enabled ∧
    (sync_out r.2 = true ∨
      (r.1.IR = c.IR ∧ step + 1 < 8 ∧ (op_A9 (step + 1) (w65816_init false).1 0).isSome = true) ∨
      ((r.1.IR = (c.IR + 0) % 65536 ∨ r.1.IR = (c.IR + 1) % 65536) ∧ step + 2 < 8 ∧
        (op_A9 (step + 1) (w65816_init false).1 0).isSome = true ∧ (op_A9 (step + 2) (w65816_init false).1 0).isSome = true)) := by
  unfold op_A9 at h
  split at h
  case h_4 => exact Option.noConfusion h
  all_goals cases h
  all_goals refine ⟨(by
    first
    | (dsimp only [set_A, set_B, _NZ, _NZ16] <;>
       repeat' (first | apply ite_bcd_of | apply ite_fst_bcd_of | rfl))
    | rfl), ?_⟩
  case h_3 => exact Or.inl (fetch_sync _ _)
  all_goals exact Or.inr (Or.inl ⟨(by
    first
    | (dsimp only [set_A, set_B, _NZ, _NZ16] <;>
       repeat' (first | apply ite_IR_of | apply ite_fst_IR_of | rfl))
    | rfl), by decide, Eq.refl true⟩)

theorem op_AA_isSome (step : Nat) (c : w65816_t) (pins : Nat) :
    (op_AA step c pins).isSome = (op_AA step (w65816_init false).1 0).isSome := by
  unfold op_AA
  split <;> first | exact Eq.refl true | exact Eq.refl false

theorem op_AA_live (step : Nat) (c : w65816_t) (pins : Nat) (r : w65816_t × Nat)
    (h : op_AA step c pins = some r) :
    r.1.bcd_enabled = c.bcd_enabled ∧
    (sync_out r.2 = true ∨
      (r.1.IR = c.IR ∧ step + 1 < 8 ∧ (op_AA (step + 1) (w65816_init false).1 0).isSome = true) ∨
      ((r.1.IR = (c.IR + 0) % 65536 ∨ r.1.IR = (c.IR + 1) % 65536) ∧ step + 2 < 8 ∧
        (op_AA (step + 1) (w65816_init false).1 0).isSome = true ∧ (op_AA (step + 2) (w65816_init false).1 0).isSome = true)) := by
  unfold op_AA at h
  split at h
  case h_3 => exact Option.noConfusion h
  all_goals cases h
  all_goals refine ⟨(by
    first
    | (dsimp only [set_X, _NZ] <;>
       repeat' (first | apply ite_bcd_of | apply ite_fst_bcd_of | rfl))
    | rfl), ?_⟩
  case h_2 => exact Or.inl (fetch_sync _ _)
  all_goals exact Or.inr (Or.inl ⟨(by
    first
    | (dsimp only [set_X, _NZ] <;>
       repeat' (first | apply ite_IR_of | apply ite_fst_IR_of | rfl))
    | rfl), by decide, Eq.refl true⟩)

theorem op_AB_isSome (step : Nat) (c : w65816_t) (pins : Nat) :
    (op_AB step c pins).isSome = (op_AB step (w65816_init false).1 0).isSome := by
  unfold op_AB
  split <;> first | exact Eq.refl true | exact Eq.refl false

theorem op_AB_live (step : Nat) (c : w65816_t) (pins : Nat) (r : w65816_t × Nat)
    (h : op_AB step c pins = some r) :
    r.1.bcd_enabled = c.bcd_enabled ∧
    (sync_out r.2 = true ∨
      (r.1.IR = c.IR ∧ step + 1 < 8 ∧ (op_AB (step + 1) (w65816_init false).1 0).isSome = true) ∨
      ((r.1.IR = (c.IR + 0) % 65536 ∨ r.1.IR = (c.IR + 1) % 65536) ∧ step + 2 < 8 ∧
        (op_AB (step + 1) (w65816_init false).1 0).isSome = true ∧ (op_AB (step + 2) (w65816_init false).1 0).isSome = true)) := by
  unfold op_AB at h
  split at h
  case h_5 => exact Option.noConfusion h
  all_goals cases h
  all_goals refine ⟨(by
    first
    | (dsimp only [set_S, _NZ] <;>
       repeat' (first | apply ite_bcd_of | apply ite_fst_bcd_of | rfl))
    | rfl), ?_⟩
  case h_4 => exact Or.inl (fetch_sync _ _)
  all_goals exact Or.inr (Or.inl ⟨(by
    first
    | (dsimp only [set_S, _NZ] <;>
       repeat' (first | apply ite_IR_of | apply ite_fst_IR_of | rfl))
    | rfl), by decide, Eq.refl true⟩)

theorem op_AC_isSome (step : Nat) (c : w65816_t) (pins : Nat) :
    (op_AC step c pins).isSome = (op_AC step (w65816_init false).1 0).isSome := by
  unfold op_AC
  split <;> first | exact Eq.refl true | exact Eq.refl false

theorem op_AC_live (step : Nat) (c : w65816_t) (pins : Nat) (r : w65816_t × Nat)
    (h : op_AC step c pins = some r) :
    r.1.bcd_enabled = c.bcd_enabled ∧
    (sync_out r.2 = true ∨
      (r.1.IR = c.IR ∧ step + 1 < 8 ∧ (op_AC (step + 1) (w65816_init false).1 0).isSome = true) ∨
      ((r.1.IR = (c.IR + 0) % 65536 ∨ r.1.IR = (c.IR + 1) % 65536) ∧ step + 2 < 8 ∧
        (op_AC (step + 1) (w65816_init false).1 0).isSome = true ∧ (op_AC (step + 2) (w65816_init false).1 0).isSome = true)) := by
  unfold op_AC at h
  split at h
  case h_6 => exact Option.noConfusion h
  all_goals cases h
  all_goals refine ⟨(by
    first
    | (dsimp only [set_Y, set_YH, _NZ, _NZ16] <;>
       repeat' (first | apply ite_bcd_of | apply ite_fst_bcd_of | rfl))
    | rfl), ?_⟩
  case h_5 => exact Or.inl (fetch_sync _ _)
  all_goals exact Or.inr (Or.inl ⟨(by
    first
    | (dsimp only [set_Y, set_YH, _NZ, _NZ16] <;>
       repeat' (first | apply ite_IR_of | apply ite_fst_IR_of | rfl))
    | rfl), by decide, Eq.refl true⟩)

theorem op_AD_isSome (step : Nat) (c : w65816_t) (pins : Nat) :
    (op_AD step c pins).isSome = (op_AD step (w65816_init false).1 0).isSome := by
  unfold op_AD
  split <;> first | exact Eq.refl true | exact Eq.refl false

theorem op_AD_live (step : Nat) (c : w65816_t) (pins : Nat) (r : w65816_t × Nat)
    (h : op_AD step c pins = some r) :
    r.1.bcd_enabled = c.bcd_enabled ∧
    (sync_out r.2 = true ∨
      (r.1.IR = c.IR ∧ step + 1 < 8 ∧ (op_AD (step + 1) (w65816_init false).1 0).isSome = true) ∨
      ((r.1.IR = (c.IR + 0) % 65536 ∨ r.1.IR = (c.IR + 1) % 65536) ∧ step + 2 < 8 ∧
        (op_AD (step + 1) (w65816_init false).1 0).isSome = true ∧ (op_AD (step + 2) (w65816_init false).1 0).isSome = true)) := by
  unfold op_AD at h
  split at h
  case h_6 => exact Option.noConfusion h
  all_goals cases h
  all_goals refine ⟨(by
    first
    | (dsimp only [set_A, set_B, _NZ, _NZ16] <;>
       repeat' (first | apply ite_bcd_of | apply ite_fst_bcd_of | rfl))
    | rfl), ?_⟩
  case h_5 => exact Or.inl (fetch_sync _ _)
  all_goals exact Or.inr (Or.inl ⟨(by
    first
    | (dsimp only [set_A, set_B, _NZ, _NZ16] <;>
       repeat' (first | apply ite_IR_of | apply ite_fst_IR_of | rfl))
    | rfl), by decide, Eq.refl true⟩)

theorem op_AE_isSome (step : Nat) (c : w65816_t) (pins : Nat) :
    (op_AE step c pins).isSome = (op_AE step (w65816_init false).1 0).isSome := by
  unfold op_AE
  split <;> first | exact Eq.refl true | exact Eq.refl false

theorem op_AE_live (step : Nat) (c : w65816_t) (pins : Nat) (r : w65816_t × Nat)
    (h : op_AE step c pins = some r) :
    r.1.bcd_enabled = c.bcd_enabled ∧
    (sync_out r.2 = true ∨
      (r.1.IR = c.IR ∧ step + 1 < 8 ∧ (op_AE (step + 1) (w65816_init false).1 0).isSome = true) ∨
      ((r.1.IR = (c.IR + 0) % 65536 ∨ r.1.IR = (c.IR + 1) % 65536) ∧ step + 2 < 8 ∧
        (op_AE (step + 1) (w65816_init false).1 0).isSome = true ∧ (op_AE (step + 2) (w65816_init false).1 0).isSome = true)) := by
  unfold op_AE at h
  split at h
  case h_6 => exact Option.noConfusion h
  all_goals cases h
  all_goals refine ⟨(by
    first
    | (dsimp only [set_X, set_XH, _NZ, _NZ16] <;>
       repeat' (first | apply ite_bcd_of | apply ite_fst_bcd_of | rfl))
    | rfl), ?_⟩
  case h_5 => exact Or.inl (fetch_sync _ _)
  all_goals exact Or.inr (Or.inl ⟨(by
    first
    | (dsimp only [set_X, set_XH, _NZ, _NZ16] <;>
       repeat' (first | apply ite_IR_of | apply ite_fst_IR_of | rfl))
    | rfl), by decide, Eq.refl true⟩)

theorem op_AF_isSome (step : Nat) (c : w65816_t) (pins : Nat) :
    (op_AF step c pins).isSome = (op_AF step (w65816_init false).1 0).isSome := by
  unfold op_AF
  split <;> first | exact Eq.refl true | exact Eq.refl false

theorem op_AF_live (step : Nat) (c : w65816_t) (pins : Nat) (r : w65816_t × Nat)
    (h : op_AF step c pins = some r) :
    r.1.bcd_enabled = c.bcd_enabled ∧
    (sync_out r.2 = true ∨
      (r.1.IR = c.IR ∧ step + 1 < 8 ∧ (op_AF (step + 1) (w65816_init false).1 0).isSome = true) ∨
      ((r.1.IR = (c.IR + 0) % 65536 ∨ r.1.IR = (c.IR + 1) % 65536) ∧ step + 2 < 8 ∧
        (op_AF (step + 1) (w65816_init false).1 0).isSome = true ∧ (op_AF (step + 2) (w65816_init false).1 0).isSome = true)) := by
  unfold op_AF at h
  split at h
  case h_4 => exact Option.noConfusion h
  all_goals cases h
  all_goals refine ⟨(by
    first
    | (dsimp only [set_A, set_B, _NZ, _NZ16] <;>
       repeat' (first | apply ite_bcd_of | apply ite_fst_bcd_of | rfl))
    | rfl), ?_⟩
  case h_3 => exact Or.inl (fetch_sync _ _)
  all_goals exact Or.inr (Or.inl ⟨(by
    first
    | (dsimp only [set_A, set_B, _NZ, _NZ16] <;>
       repeat' (first | apply ite_IR_of | apply ite_fst_IR_of | rfl))
    | rfl), by decide, Eq.refl true⟩)

theorem op_B0_isSome (step : Nat) (c : w65816_t) (pins : Nat) :
    (op_B0 step c pins).isSome = (op_B0 step (w65816_init false).1 0).isSome := by
  unfold op_B0
  split <;> first | exact Eq.refl true | exact Eq.refl false

theorem op_B0_live (step : Nat) (c : w65816_t) (pins : Nat) (r : w65816_t × Nat)
    (h : op_B0 step c pins = some r) :
    r.1.bcd_enabled = c.bcd_enabled ∧
    (sync_out r.2 = true ∨
      (r.1.IR = c.IR ∧ step + 1 < 8 ∧ (op_B0 (step + 1) (w65816_init false).1 0).isSome = true) ∨
      ((r.1.IR = (c.IR + 0) % 65536 ∨ r.1.IR = (c.IR + 1) % 65536) ∧ step + 2 < 8 ∧
        (op_B0 (step + 1) (w65816_init false).1 0).isSome = true ∧ (op_B0 (step + 2) (w65816_init false).1 0).isSome = true)) := by
  unfold op_B0 at h
  split at h
  case h_5 => exact Option.noConfusion h
  all_goals cases h
  all_goals refine ⟨(by
    first
    | (dsimp only [] <;>
       repeat' (first | apply ite_bcd_of | apply ite_fst_bcd_of | rfl))
    | rfl), ?_⟩
  case h_4 => exact Or.inl (fetch_sync _ _)
  all_goals exact Or.inr (Or.inl ⟨(by
    first
    | (dsimp only [] <;>
       repeat' (first | apply ite_IR_of | apply ite_fst_IR_of | rfl))
    | rfl), by decide, Eq.refl true⟩)

theorem op_B1_isSome (step : Nat) (c : w65816_t) (pins : Nat) :
    (op_B1 step c pins).isSome = (op_B1 step (w65816_init false).1 0).isSome := by
  unfold op_B1
  split <;> first | exact Eq.refl true | exact Eq.refl false

theorem op_B1_live (step : Nat) (c : w65816_t) (pins : Nat) (r : w65816_t × Nat)
    (h : op_B1 step c pins = some r) :
    r.1.bcd_enabled = c.bcd_enabled ∧
    (sync_out r.2 = true ∨
      (r.1.IR = c.IR ∧ step + 1 < 8 ∧ (op_B1 (step + 1) (w65816_init false).1 0).isSome = true) ∨
      ((r.1.IR = (c.IR + 0) % 65536 ∨ r.1.IR = (c.IR + 1) % 65536) ∧ step + 2 < 8 ∧
        (op_B1 (step + 1) (w65816_init false).1 0).isSome = true ∧ (op_B1 (step + 2) (w65816_init false).1 0).isSome = true)) := by
  unfold op_B1 at h
  split at h
  case h_8 => exact Option.noConfusion h
  all_goals cases h
  all_goals refine ⟨(by
    first
    | (dsimp only [set_A, set_B, _NZ, _NZ16] <;>
       repeat' (first | apply ite_bcd_of | apply ite_fst_bcd_of | rfl))
    | rfl), ?_⟩
  case h_4 => exact Or.inr (Or.inr ⟨skip_IR _ _, by decide, Eq.refl true, Eq.refl true⟩)
  case h_7 => exact Or.inl (fetch_sync _ _)
  all_goals exact Or.inr (Or.inl ⟨(by
    first
    | (dsimp only [set_A, set_B, _NZ, _NZ16] <;>
       repeat' (first | apply ite_IR_of | apply ite_fst_IR_of | rfl))
    | rfl), by decide, Eq.refl true⟩)

theorem op_B2_isSome (step : Nat) (c : w65816_t) (pins : Nat) :
    (op_B2 step c pins).isSome = (op_B2 step (w65816_init false).1 0).isSome := by
  unfold op_B2
  split <;> first | exact Eq.refl true | exact Eq.refl false

theorem op_B2_live (step : Nat) (c : w65816_t) (pins : Nat) (r : w65816_t × Nat)
    (h : op_B2 step c pins = some r) :
    r.1.bcd_enabled = c.bcd_enabled ∧
    (sync_out r.2 = true ∨
      (r.1.IR = c.IR ∧ step + 1 < 8 ∧ (op_B2 (step + 1) (w65816_init false).1 0).isSome = true) ∨
      ((r.1.IR = (c.IR + 0) % 65536 ∨ r.1.IR = (c.IR + 1) % 65536) ∧ step + 2 < 8 ∧
        (op_B2 (step + 1) (w65816_init false).1 0).isSome = true ∧ (op_B2 (step + 2) (w65816_init false).1 0).isSome = true)) := by
  unfold op_B2 at h
  split at h
  case h_4 => exact Option.noConfusion h
  all_goals cases h
  all_goals refine ⟨(by
    first
    | (dsimp only [set_A, set_B, _NZ, _NZ16] <;>
       repeat' (first | apply ite_bcd_of | apply ite_fst_bcd_of | rfl))
    | rfl), ?_⟩
  case h_3 => exact Or.inl (fetch_sync _ _)
  all_goals exact Or.inr (Or.inl ⟨(by
    first
    | (dsimp only [set_A, set_B, _NZ, _NZ16] <;>
       repeat' (first | apply ite_IR_of | apply ite_fst_IR_of | rfl))
    | rfl), by decide, Eq.refl true⟩)

theorem op_B3_isSome (step : Nat) (c : w65816_t) (pins : Nat) :
    (op_B3 step c pins).isSome = (op_B3 step (w65816_init false).1 0).isSome := by
  unfold op_B3
  split <;> first | exact Eq.refl true | exact Eq.refl false

theorem op_B3_live (step : Nat) (c : w65816_t) (pins : Nat) (r : w65816_t × Nat)
    (h : op_B3 step c pins = some r) :
    r.1.bcd_enabled = c.bcd_enabled ∧
    (sync_out r.2 = true ∨
      (r.1.IR = c.IR ∧ step + 1 < 8 ∧ (op_B3 (step + 1) (w65816_init false).1 0).isSome = true) ∨
      ((r.1.IR = (c.IR + 0) % 65536 ∨ r.1.IR = (c.IR + 1) % 65536) ∧ step + 2 < 8 ∧
        (op_B3 (step + 1) (w65816_init false).1 0).isSome = true ∧ (op_B3 (step + 2) (w65816_init false).1 0).isSome = true)) := by
  unfold op_B3 at h
  split at h
  case h_4 => exact Option.noConfusion h
  all_goals cases h
  all_goals refine ⟨(by
    first
    | (dsimp only [set_A, set_B, _NZ, _NZ16] <;>
       repeat' (first | apply ite_bcd_of | apply ite_fst_bcd_of | rfl))
    | rfl), ?_⟩
  case h_3 => exact Or.inl (fetch_sync _ _)
  all_goals exact Or.inr (Or.inl ⟨(by
    first
    | (dsimp only [set_A, set_B, _NZ, _NZ16] <;>
       repeat' (first | apply ite_IR_of | apply ite_fst_IR_of | rfl))
    | rfl), by decide, Eq.refl true⟩)

theorem op_B4_isSome (step : Nat) (c : w65816_t) (pins : Nat) :
    (op_B4 step c pins).isSome = (op_B4 step (w65816_init false).1 0).isSome := by
  unfold op_B4
  split <;> first | exact Eq.refl true | exact Eq.refl false

theorem op_B4_live (step : Nat) (c : w65816_t) (pins : Nat) (r : w65816_t × Nat)
    (h : op_B4 step c pins = some r) :
    r.1.bcd_enabled = c.bcd_enabled ∧
    (sync_out r.2 = true ∨
      (r.1.IR = c.IR ∧ step + 1 < 8 ∧ (op_B4 (step + 1) (w65816_init false).1 0).isSome = true) ∨
      ((r.1.IR = (c.IR + 0) % 65536 ∨ r.1.IR = (c.IR + 1) % 65536) ∧ step + 2 < 8 ∧
        (op_B4 (step + 1) (w65816_init false).1 0).isSome = true ∧ (op_B4 (step + 2) (w65816_init false).1 0).isSome = true)) := by
  unfold op_B4 at h
  split at h
  case h_6 => exact Option.noConfusion h
  all_goals cases h
  all_goals refine ⟨(by
    first
    | (dsimp only [set_Y, set_YH, _NZ, _NZ16] <;>
       repeat' (first | apply ite_bcd_of | apply ite_fst_bcd_of | rfl))
    | rfl), ?_⟩
  case h_5 => exact Or.inl (fetch_sync _ _)
  all_goals exact Or.inr (Or.inl ⟨(by
    first
    | (dsimp only [set_Y, set_YH, _NZ, _NZ16] <;>
       repeat' (first | apply ite_IR_of | apply ite_fst_IR_of | rfl))
    | rfl), by decide, Eq.refl true⟩)

theorem op_B5_isSome (step : Nat) (c : w65816_t) (pins : Nat) :
    (op_B5 step c pins).isSome = (op_B5 step (w65816_init false).1 0).isSome := by
  unfold op_B5
  split <;> first | exact Eq.refl true | exact Eq.refl false

theorem op_B5_live (step : Nat) (c : w65816_t) (pins : Nat) (r : w65816_t × Nat)
    (h : op_B5 step c pins = some r) :
    r.1.bcd_enabled = c.bcd_enabled ∧
    (sync_out r.2 = true ∨
      (r.1.IR = c.IR ∧ step + 1 < 8 ∧ (op_B5 (step + 1) (w65816_init false).1 0).isSome = true) ∨
      ((r.1.IR = (c.IR + 0) % 65536 ∨ r.1.IR = (c.IR + 1) % 65536) ∧ step + 2 < 8 ∧
        (op_B5 (step + 1) (w65816_init false).1 0).isSome = true ∧ (op_B5 (step + 2) (w65816_init false).1 0).isSome = true)) := by
  unfold op_B5 at h
  split at h
  case h_6 => exact Option.noConfusion h
  all_goals cases h
  all_goals refine ⟨(by
    first
    | (dsimp only [set_A, set_B, _NZ, _NZ16] <;>
       repeat' (first | apply ite_bcd_of | apply ite_fst_bcd_of | rfl))
    | rfl), ?_⟩
  case h_5 => exact Or.inl (fetch_sync _ _)
  all_goals exact Or.inr (Or.inl ⟨(by
    first
    | (dsimp only [set_A, set_B, _NZ, _NZ16] <;>
       repeat' (first | apply ite_IR_of | apply ite_fst_IR_of | rfl))
    | rfl), by decide, Eq.refl true⟩)

theorem op_B6_isSome (step : Nat) (c : w65816_t) (pins : Nat) :
    (op_B6 step c pins).isSome = (op_B6 step (w65816_init false).1 0).isSome := by
  unfold op_B6
  split <;> first | exact Eq.refl true | exact Eq.refl false

theorem op_B6_live (step : Nat) (c : w65816_t) (pins : Nat) (r : w65816_t × Nat)
    (h : op_B6 step c pins = some r) :
    r.1.bcd_enabled = c.bcd_enabled ∧
    (sync_out r.2 = true ∨
      (r.1.IR = c.IR ∧ step + 1 < 8 ∧ (op_B6 (step + 1) (w65816_init false).1 0).isSome = true) ∨
      ((r.1.IR = (c.IR + 0) % 65536 ∨ r.1.IR = (c.IR + 1) % 65536) ∧ step + 2 < 8 ∧
        (op_B6 (step + 1) (w65816_init false).1 0).isSome = true ∧ (op_B6 (step + 2) (w65816_init false).1 0).isSome = true)) := by
  unfold op_B6 at h
  split at h
  case h_6 => exact Option.noConfusion h
  all_goals cases h
  all_goals refine ⟨(by
    first
    | (dsimp only [set_X, set_XH, _NZ, _NZ16] <;>
       repeat' (first | apply ite_bcd_of | apply ite_fst_bcd_of | rfl))
    | rfl), ?_⟩
  case h_5 => exact Or.inl (fetch_sync _ _)
  all_goals exact Or.inr (Or.inl ⟨(by
    first
    | (dsimp only [set_X, set_XH, _NZ, _NZ16] <;>
       repeat' (first | apply ite_IR_of | apply ite_fst_IR_of | rfl))
    | rfl), by decide, Eq.refl true⟩)

theorem op_B7_isSome (step : Nat) (c : w65816_t) (pins : Nat) :
    (op_B7 step c pins).isSome = (op_B7 step (w65816_init false).1 0).isSome := by
  unfold op_B7
  split <;> first | exact Eq.refl true | exact Eq.refl false

theorem op_B7_live (step : Nat) (c : w65816_t) (pins : Nat) (r : w65816_t × Nat)
    (h : op_B7 step c pins = some r) :
    r.1.bcd_enabled = c.bcd_enabled ∧
    (sync_out r.2 = true ∨
      (r.1.IR = c.IR ∧ step + 1 < 8 ∧ (op_B7 (step + 1) (w65816_init false).1 0).isSome = true) ∨
      ((r.1.IR = (c.IR + 0) % 65536 ∨ r.1.IR = (c.IR + 1) % 65536) ∧ step + 2 < 8 ∧
        (op_B7 (step + 1) (w65816_init false).1 0).isSome = true ∧ (op_B7 (step + 2) (w65816_init false).1 0).isSome = true)) := by
  unfold op_B7 at h
  split at h
  case h_4 => exact Option.noConfusion h
  all_goals cases h
  all_goals refine ⟨(by
    first
    | (dsimp only [set_A, set_B, _NZ, _NZ16] <;>
       repeat' (first | apply ite_bcd_of | apply ite_fst_bcd_of | rfl))
    | rfl), ?_⟩
  case h_3 => exact Or.inl (fetch_sync _ _)
  all_goals exact Or.inr (Or.inl ⟨(by
    first
    | (dsimp only [set_A, set_B, _NZ, _NZ16] <;>
       repeat' (first | apply ite_IR_of | apply ite_fst_IR_of | rfl))
    | rfl), by decide, Eq.refl true⟩)

theorem op_B8_isSome (step : Nat) (c : w65816_t) (pins : Nat) :
    (op_B8 step c pins).isSome = (op_B8 step (w65816_init false).1 0).isSome := by
  unfold op_B8
  split <;> first | exact Eq.refl true | exact Eq.refl false

theorem op_B8_live (step : Nat) (c : w65816_t) (pins : Nat) (r : w65816_t × Nat)
    (h : op_B8 step c pins = some r) :
    r.1.bcd_enabled = c.bcd_enabled ∧
    (sync_out r.2 = true ∨
      (r.1.IR = c.IR ∧ step + 1 < 8 ∧ (op_B8 (step + 1) (w65816_init false).1 0).isSome = true) ∨
      ((r.1.IR = (c.IR + 0) % 65536 ∨ r.1.IR = (c.IR + 1) % 65536) ∧ step + 2 < 8 ∧
        (op_B8 (step + 1) (w65816_init false).1 0).isSome = true ∧ (op_B8 (step + 2) (w65816_init false).1 0).isSome = true)) := by
  unfold op_B8 at h
  split at h
  case h_3 => exact Option.noConfusion h
  all_goals cases h
  all_goals refine ⟨(by
    first
    | (dsimp only [] <;>
       repeat' (first | apply ite_bcd_of | apply ite_fst_bcd_of | rfl))
    | rfl), ?_⟩
  case h_2 => exact Or.inl (fetch_sync _ _)
  all_goals exact Or.inr (Or.inl ⟨(by
    first
    | (dsimp only [] <;>
       repeat' (first | apply ite_IR_of | apply ite_fst_IR_of | rfl))
    | rfl), by decide, Eq.refl true⟩)

theorem op_B9_isSome (step : Nat) (c : w65816_t) (pins : Nat) :
    (op_B9 step c pins).isSome = (op_B9 step (w65816_init false).1 0).isSome := by
  unfold op_B9
  split <;> first | exact Eq.refl true | exact Eq.refl false

theorem op_B9_live (step : Nat) (c : w65816_t) (pins : Nat) (r : w65816_t × Nat)
    (h : op_B9 step c pins = some r) :
    r.1.bcd_enabled = c.bcd_enabled ∧
    (sync_out r.2 = true ∨
      (r.1.IR = c.IR ∧ step + 1 < 8 ∧ (op_B9 (step + 1) (w65816_init false).1 0).isSome = true) ∨
      ((r.1.IR = (c.IR + 0) % 65536 ∨ r.1.IR = (c.IR + 1) % 65536) ∧ step + 2 < 8 ∧
        (op_B9 (step + 1) (w65816_init false).1 0).isSome = true ∧ (op_B9 (step + 2) (w65816_init false).1 0).isSome = true)) := by
  unfold op_B9 at h
  split at h
  case h_7 => exact Option.noConfusion h
  all_goals cases h
  all_goals refine ⟨(by
    first
    | (dsimp only [set_A, set_B, _NZ, _NZ16] <;>
       repeat' (first | apply ite_bcd_of | apply ite_fst_bcd_of | rfl))
    | rfl), ?_⟩
  case h_3 => exact Or.inr (Or.inr ⟨skip_IR _ _, by decide, Eq.refl true, Eq.refl true⟩)
  case h_6 => exact Or.inl (fetch_sync _ _)
  all_goals exact Or.inr (Or.inl ⟨(by
    first
    | (dsimp only [set_A, set_B, _NZ, _NZ16] <;>
       repeat' (first | apply ite_IR_of | apply ite_fst_IR_of | rfl))
    | rfl), by decide, Eq.refl true⟩)

theorem op_BA_isSome (step : Nat) (c : w65816_t) (pins : Nat) :
    (op_BA step c pins).isSome = (op_BA step (w65816_init false).1 0).isSome := by
  unfold op_BA
  split <;> first | exact Eq.refl true | exact Eq.refl false

theorem op_BA_live (step : Nat) (c : w65816_t) (pins : Nat) (r : w65816_t × Nat)
    (h : op_BA step c pins = some r) :
    r.1.bcd_enabled = c.bcd_enabled ∧
    (sync_out r.2 = true ∨
      (r.1.IR = c.IR ∧ step + 1 < 8 ∧ (op_BA (step + 1) (w65816_init false).1 0).isSome = true) ∨
      ((r.1.IR = (c.IR + 0) % 65536 ∨ r.1.IR = (c.IR + 1) % 65536) ∧ step + 2 < 8 ∧
        (op_BA (step + 1) (w65816_init false).1 0).isSome = true ∧ (op_BA (step + 2) (w65816_init false).1 0).isSome = true)) := by
  unfold op_BA at h
  split at h
  case h_3 => exact Option.noConfusion h
  all_goals cases h
  all_goals refine ⟨(by
    first
    | (dsimp only [set_X, _NZ] <;>
       repeat' (first | apply ite_bcd_of | apply ite_fst_bcd_of | rfl))
    | rfl), ?_⟩
  case h_2 => exact Or.inl (fetch_sync _ _)
  all_goals exact Or.inr (Or.inl ⟨(by
    first
    | (dsimp only [set_X, _NZ] <;>
       repeat' (first | apply ite_IR_of | apply ite_fst_IR_of | rfl))
    | rfl), by decide, Eq.refl true⟩)

theorem op_BB_isSome (step : Nat) (c : w65816_t) (pins : Nat) :
    (op_BB step c pins).isSome = (op_BB step (w65816_init false).1 0).isSome := by
  unfold op_BB
  split <;> first | exact Eq.refl true | exact Eq.refl false

theorem op_BB_live (step : Nat) (c : w65816_t) (pins : Nat) (r : w65816_t × Nat)
    (h : op_BB step c pins = some r) :
    r.1.bcd_enabled = c.bcd_enabled ∧
    (sync_out r.2 = true ∨
      (r.1.IR = c.IR ∧ step + 1 < 8 ∧ (op_BB (step + 1) (w65816_init false).1 0).isSome = true) ∨
      ((r.1.IR = (c.IR + 0) % 65536 ∨ r.1.IR = (c.IR + 1) % 65536) ∧ step + 2 < 8 ∧
        (op_BB (step + 1) (w65816_init false).1 0).isSome = true ∧ (op_BB (step + 2) (w65816_init false).1 0).isSome = true)) := by
  unfold op_BB at h
  split at h
  case h_3 => exact Option.noConfusion h
  all_goals cases h
  all_goals refine ⟨(by
    first
    | (dsimp only [set_X, _NZ] <;>
       repeat' (first | apply ite_bcd_of | apply ite_fst_bcd_of | rfl))
    | rfl), ?_⟩
  case h_2 => exact Or.inl (fetch_sync _ _)
  all_goals exact Or.inr (Or.inl ⟨(by
    first
    | (dsimp only [set_X, _NZ] <;>
       repeat' (first | apply ite_IR_of | apply ite_fst_IR_of | rfl))
    | rfl), by decide, Eq.refl true⟩)

theorem op_BC_isSome (step : Nat) (c : w65816_t) (pins : Nat) :
    (op_BC step c pins).isSome = (op_BC step (w65816_init false).1 0).isSome := by
  unfold op_BC
  split <;> first | exact Eq.refl true | exact Eq.refl false

theorem op_BC_live (step : Nat) (c : w65816_t) (pins : Nat) (r : w65816_t × Nat)
    (h : op_BC step c pins = some r) :
    r.1.bcd_enabled = c.bcd_enabled ∧
    (sync_out r.2 = true ∨
      (r.1.IR = c.IR ∧ step + 1 < 8 ∧ (op_BC (step + 1) (w65816_init false).1 0).isSome = true) ∨
      ((r.1.IR = (c.IR + 0) % 65536 ∨ r.1.IR = (c.IR + 1) % 65536) ∧ step + 2 < 8 ∧
        (op_BC (step + 1) (w65816_init false).1 0).isSome = true ∧ (op_BC (step + 2) (w65816_init false).1 0).isSome = true)) := by
  unfold op_BC at h
  split at h
  case h_7 => exact Option.noConfusion h
  all_goals cases h
  all_goals refine ⟨(by
    first
    | (dsimp only [set_Y, set_YH, _NZ, _NZ16] <;>
       repeat' (first | apply ite_bcd_of | apply ite_fst_bcd_of | rfl))
    | rfl), ?_⟩
  case h_3 => exact Or.inr (Or.inr ⟨skip_IR _ _, by decide, Eq.refl true, Eq.refl true⟩)
  case h_6 => exact Or.inl (fetch_sync _ _)
  all_goals exact Or.inr (Or.inl ⟨(by
    first
    | (dsimp only [set_Y, set_YH, _NZ, _NZ16] <;>
       repeat' (first | apply ite_IR_of | apply ite_fst_IR_of | rfl))
    | rfl), by decide, Eq.refl true⟩)

theorem op_BD_isSome (step : Nat) (c : w65816_t) (pins : Nat) :
    (op_BD step c pins).isSome = (op_BD step (w65816_init false).1 0).isSome := by
  unfold op_BD
  split <;> first | exact Eq.refl true | exact Eq.refl false

theorem op_BD_live (step : Nat) (c : w65816_t) (pins : Nat) (r : w65816_t × Nat)
    (h : op_BD step c pins = some r) :
    r.1.bcd_enabled = c.bcd_enabled ∧
    (sync_out r.2 = true ∨
      (r.1.IR = c.IR ∧ step + 1 < 8 ∧ (op_BD (step + 1) (w65816_init false).1 0).isSome = true) ∨
      ((r.1.IR = (c.IR + 0) % 65536 ∨ r.1.IR = (c.IR + 1) % 65536) ∧ step + 2 < 8 ∧
        (op_BD (step + 1) (w65816_init false).1 0).isSome = true ∧ (op_BD (step + 2) (w65816_init false).1 0).isSome = true)) := by
  unfold op_BD at h
  split at h
  case h_7 => exact Option.noConfusion h
  all_goals cases h
  all_goals refine ⟨(by
    first
    | (dsimp only [set_A, set_B, _NZ, _NZ16] <;>
       repeat' (first | apply ite_bcd_of | apply ite_fst_bcd_of | rfl))
    | rfl), ?_⟩
  case h_3 => exact Or.inr (Or.inr ⟨skip_IR _ _, by decide, Eq.refl true, Eq.refl true⟩)
  case h_6 => exact Or.inl (fetch_sync _ _)
  all_goals exact Or.inr (Or.inl ⟨(by
    first
    | (dsimp only [set_A, set_B, _NZ, _NZ16] <;>
       repeat' (first | apply ite_IR_of | apply ite_fst_IR_of | rfl))
    | rfl), by decide, Eq.refl true⟩)

theorem op_BE_isSome (step : Nat) (c : w65816_t) (pins : Nat) :
    (op_BE step c pins).isSome = (op_BE step (w65816_init false).1 0).isSome := by
  unfold op_BE
  split <;> first | exact Eq.refl true | exact Eq.refl false

theorem op_BE_live (step : Nat) (c : w65816_t) (pins : Nat) (r : w65816_t × Nat)
    (h : op_BE step c pins = some r) :
    r.1.bcd_enabled = c.bcd_enabled ∧
    (sync_out r.2 = true ∨
      (r.1.IR = c.IR ∧ step + 1 < 8 ∧ (op_BE (step + 1) (w65816_init false).1 0).isSome = true) ∨
      ((r.1.IR = (c.IR + 0) % 65536 ∨ r.1.IR = (c.IR + 1) % 65536) ∧ step + 2 < 8 ∧
        (op_BE (step + 1) (w65816_init false).1 0).isSome = true ∧ (op_BE (step + 2) (w65816_init false).1 0).isSome = true)) := by
  unfold op_BE at h
  split at h
  case h_7 => exact Option.noConfusion h
  all_goals cases h
  all_goals refine ⟨(by
    first
    | (dsimp only [set_X, set_XH, _NZ, _NZ16] <;>
       repeat' (first | apply ite_bcd_of | apply ite_fst_bcd_of | rfl))
    | rfl), ?_⟩
  case h_3 => exact Or.inr (Or.inr ⟨skip_IR _ _, by decide, Eq.refl true, Eq.refl true⟩)
  case h_6 => exact Or.inl (fetch_sync _ _)
  all_goals exact Or.inr (Or.inl ⟨(by
    first
    | (dsimp only [set_X, set_XH, _NZ, _NZ16] <;>
       repeat' (first | apply ite_IR_of | apply ite_fst_IR_of | rfl))
    | rfl), by decide, Eq.refl true⟩)

theorem op_BF_isSome (step : Nat) (c : w65816_t) (pins : Nat) :
    (op_BF step c pins).isSome = (op_BF step (w65816_init false).1 0).isSome := by
  unfold op_BF
  split <;> first | exact Eq.refl true | exact Eq.refl false

theorem op_BF_live (step : Nat) (c : w65816_t) (pins : Nat) (r : w65816_t × Nat)
    (h : op_BF step c pins = some r) :
    r.1.bcd_enabled = c.bcd_enabled ∧
    (sync_out r.2 = true ∨
      (r.1.IR = c.IR ∧ step + 1 < 8 ∧ (op_BF (step + 1) (w65816_init false).1 0).isSome = true) ∨
      ((r.1.IR = (c.IR + 0) % 65536 ∨ r.1.IR = (c.IR + 1) % 65536) ∧ step + 2 < 8 ∧
        (op_BF (step + 1) (w65816_init false).1 0).isSome = true ∧ (op_BF (step + 2) (w65816_init false).1 0).isSome = true)) := by
  unfold op_BF at h
  split at h
  case h_4 => exact Option.noConfusion h
  all_goals cases h
  all_goals refine ⟨(by
    first
    | (dsimp only [set_A, set_B, _NZ, _NZ16] <;>
       repeat' (first | apply ite_bcd_of | apply ite_fst_bcd_of | rfl))
    | rfl), ?_⟩
  case h_3 => exact Or.inl (fetch_sync _ _)
  all_goals exact Or.inr (Or.inl ⟨(by
    first
    | (dsimp only [set_A, set_B, _NZ, _NZ16] <;>
       repeat' (first | apply ite_IR_of | apply ite_fst_IR_of | rfl))
    | rfl), by decide, Eq.refl true⟩)

theorem op_C0_isSome (step : Nat) (c : w65816_t) (pins : Nat) :
    (op_C0 step c pins).isSome = (op_C0 step (w65816_init false).1 0).isSome := by
  unfold op_C0
  split <;> first | exact Eq.refl true | exact Eq.refl false

theorem op_C0_live (step : Nat) (c : w65816_t) (pins : Nat) (r : w65816_t × Nat)
    (h : op_C0 step c pins = some r) :
    r.1.bcd_enabled = c.bcd_enabled ∧
    (sync_out r.2 = true ∨
      (r.1.IR = c.IR ∧ step + 1 < 8 ∧ (op_C0 (step + 1) (w65816_init false).1 0).isSome = true) ∨
      ((r.1.IR = (c.IR + 0) % 65536 ∨ r.1.IR = (c.IR + 1) % 65536) ∧ step + 2 < 8 ∧
        (op_C0 (step + 1) (w65816_init false).1 0).isSome = true ∧ (op_C0 (step + 2) (w65816_init false).1 0).isSome = true)) := by
  unfold op_C0 at h
  split at h
  case h_3 => exact Option.noConfusion h
  all_goals cases h
  all_goals refine ⟨(by
    first
    | (dsimp only [_w65816_cmp] <;>
       repeat' (first | apply ite_bcd_of | apply ite_fst_bcd_of | rfl))
    | rfl), ?_⟩
  case h_2 => exact Or.inl (fetch_sync _ _)
  all_goals exact Or.inr (Or.inl ⟨(by
    first
    | (dsimp only [_w65816_cmp] <;>
       repeat' (first | apply ite_IR_of | apply ite_fst_IR_of | rfl))
    | rfl), by decide, Eq.refl true⟩)

theorem op_C1_isSome (step : Nat) (c : w65816_t) (pins : Nat) :
    (op_C1 step c pins).isSome = (op_C1 step (w65816_init false).1 0).isSome := by
  unfold op_C1
  split <;> first | exact Eq.refl true | exact Eq.refl false

theorem op_C1_live (step : Nat) (c : w65816_t) (pins : Nat) (r : w65816_t × Nat)
    (h : op_C1 step c pins = some r) :
    r.1.bcd_enabled = c.bcd_enabled ∧
    (sync_out r.2 = true ∨
      (r.1.IR = c.IR ∧ step + 1 < 8 ∧ (op_C1 (step + 1) (w65816_init false).1 0).isSome = true) ∨
      ((r.1.IR = (c.IR + 0) % 65536 ∨ r.1.IR = (c.IR + 1) % 65536) ∧ step + 2 < 8 ∧
        (op_C1 (step + 1) (w65816_init false).1 0).isSome = true ∧ (op_C1 (step + 2) (w65816_init false).1 0).isSome = true)) := by
  unfold op_C1 at h
  split at h
  case h_7 => exact Option.noConfusion h
  all_goals cases h
  all_goals refine ⟨(by
    first
    | (dsimp only [_w65816_cmp] <;>
       repeat' (first | apply ite_bcd_of | apply ite_fst_bcd_of | rfl))
    | rfl), ?_⟩
  case h_6 => exact Or.inl (fetch_sync _ _)
  all_goals exact Or.inr (Or.inl ⟨(by
    first
    | (dsimp only [_w65816_cmp] <;>
       repeat' (first | apply ite_IR_of | apply ite_fst_IR_of | rfl))
    | rfl), by decide, Eq.refl true⟩)

theorem op_C2_isSome (step : Nat) (c : w65816_t) (pins : Nat) :
    (op_C2 step c pins).isSome = (op_C2 step (w65816_init false).1 0).isSome := by
  unfold op_C2
  split <;> first | exact Eq.refl true | exact Eq.refl false

theorem op_C2_live (step : Nat) (c : w65816_t) (pins : Nat) (r : w65816_t × Nat)
    (h : op_C2 step c pins = some r) :
    r.1.bcd_enabled = c.bcd_enabled ∧
    (sync_out r.2 = true ∨
      (r.1.IR = c.IR ∧ step + 1 < 8 ∧ (op_C2 (step + 1) (w65816_init false).1 0).isSome = true) ∨
      ((r.1.IR = (c.IR + 0) % 65536 ∨ r.1.IR = (c.IR + 1) % 65536) ∧ step + 2 < 8 ∧
        (op_C2 (step + 1) (w65816_init false).1 0).isSome = true ∧ (op_C2 (step + 2) (w65816_init false).1 0).isSome = true)) := by
  unfold op_C2 at h
  split at h
  case h_4 => exact Option.noConfusion h
  all_goals cases h
  all_goals refine ⟨(by
    first
    | (dsimp only [] <;>
       repeat' (first | apply ite_bcd_of | apply ite_fst_bcd_of | rfl))
    | rfl), ?_⟩
  case h_3 => exact Or.inl (fetch_sync _ _)
  all_goals exact Or.inr (Or.inl ⟨(by
    first
    | (dsimp only [] <;>
       repeat' (first | apply ite_IR_of | apply ite_fst_IR_of | rfl))
    | rfl), by decide, Eq.refl true⟩)

theorem op_C3_isSome (step : Nat) (c : w65816_t) (pins : Nat) :
    (op_C3 step c pins).isSome = (op_C3 step (w65816_init false).1 0).isSome := by
  unfold op_C3
  split <;> first | exact Eq.refl true | exact Eq.refl false

theorem op_C3_live (step : Nat) (c : w65816_t) (pins : Nat) (r : w65816_t × Nat)
    (h : op_C3 step c pins = some r) :
    r.1.bcd_enabled = c.bcd_enabled ∧
    (sync_out r.2 = true ∨
      (r.1.IR = c.IR ∧ step + 1 < 8 ∧ (op_C3 (step + 1) (w65816_init false).1 0).isSome = true) ∨
      ((r.1.IR = (c.IR + 0) % 65536 ∨ r.1.IR = (c.IR + 1) % 65536) ∧ step + 2 < 8 ∧
        (op_C3 (step + 1) (w65816_init false).1 0).isSome = true ∧ (op_C3 (step + 2) (w65816_init false).1 0).isSome = true)) := by
  unfold op_C3 at h
  split at h
  case h_4 => exact Option.noConfusion h
  all_goals cases h
  all_goals refine ⟨(by
    first
    | (dsimp only [_w65816_cmp] <;>
       repeat' (first | apply ite_bcd_of | apply ite_fst_bcd_of | rfl))
    | rfl), ?_⟩
  case h_3 => exact Or.inl (fetch_sync _ _)
  all_goals exact Or.inr (Or.inl ⟨(by
    first
    | (dsimp only [_w65816_cmp] <;>
       repeat' (first | apply ite_IR_of | apply ite_fst_IR_of | rfl))
    | rfl), by decide, Eq.refl true⟩)

theorem op_C4_isSome (step : Nat) (c : w65816_t) (pins : Nat) :
    (op_C4 step c pins).isSome = (op_C4 step (w65816_init false).1 0).isSome := by
  unfold op_C4
  split <;> first | exact Eq.refl true | exact Eq.refl false

theorem op_C4_live (step : Nat) (c : w65816_t) (pins : Nat) (r : w65816_t × Nat)
    (h : op_C4 step c pins = some r) :
    r.1.bcd_enabled = c.bcd_enabled ∧
    (sync_out r.2 = true ∨
      (r.1.IR = c.IR ∧ step + 1 < 8 ∧ (op_C4 (step + 1) (w65816_init false).1 0).isSome = true) ∨
      ((r.1.IR = (c.IR + 0) % 65536 ∨ r.1.IR = (c.IR + 1) % 65536) ∧ step + 2 < 8 ∧
        (op_C4 (step + 1) (w65816_init false).1 0).isSome = true ∧ (op_C4 (step + 2) (w65816_init false).1 0).isSome = true)) := by
  unfold op_C4 at h
  split at h
  case h_4 => exact Option.noConfusion h
  all_goals cases h
  all_goals refine ⟨(by
    first
    | (dsimp only [_w65816_cmp] <;>
       repeat' (first | apply ite_bcd_of | apply ite_fst_bcd_of | rfl))
    | rfl), ?_⟩
  case h_3 => exact Or.inl (fetch_sync _ _)
  all_goals exact Or.inr (Or.inl ⟨(by
    first
    | (dsimp only [_w65816_cmp] <;>
       repeat' (first | apply ite_IR_of | apply ite_fst_IR_of | rfl))
    | rfl), by decide, Eq.refl true⟩)

theorem op_C5_isSome (step : Nat) (c : w65816_t) (pins : Nat) :
    (op_C5 step c pins).isSome = (op_C5 step (w65816_init false).1 0).isSome := by
  unfold op_C5
  split <;> first | exact Eq.refl true | exact Eq.refl false

theorem op_C5_live (step : Nat) (c : w65816_t) (pins : Nat) (r : w65816_t × Nat)
    (h : op_C5 step c pins = some r) :
    r.1.bcd_enabled = c.bcd_enabled ∧
    (sync_out r.2 = true ∨
      (r.1.IR = c.IR ∧ step + 1 < 8 ∧ (op_C5 (step + 1) (w65816_init false).1 0).isSome = true) ∨
      ((r.1.IR = (c.IR + 0) % 65536 ∨ r.1.IR = (c.IR + 1) % 65536) ∧ step + 2 < 8 ∧
        (op_C5 (step + 1) (w65816_init false).1 0).isSome = true ∧ (op_C5 (step + 2) (w65816_init false).1 0).isSome = true)) := by
  unfold op_C5 at h
  split at h
  case h_4 => exact Option.noConfusion h
  all_goals cases h
  all_goals refine ⟨(by
    first
    | (dsimp only [_w65816_cmp] <;>
       repeat' (first | apply ite_bcd_of | apply ite_fst_bcd_of | rfl))
    | rfl), ?_⟩
  case h_3 => exact Or.inl (fetch_sync _ _)
  all_goals exact Or.inr (Or.inl ⟨(by
    first
    | (dsimp only [_w65816_cmp] <;>
       repeat' (first | apply ite_IR_of | apply ite_fst_IR_of | rfl))
    | rfl), by decide, Eq.refl true⟩)

theorem op_C6_isSome (step : Nat) (c : w65816_t) (pins : Nat) :
    (op_C6 step c pins).isSome = (op_C6 step (w65816_init false).1 0).isSome := by
  unfold op_C6
  split <;> first | exact Eq.refl true | exact Eq.refl false

theorem op_C6_live (step : Nat) (c : w65816_t) (pins : Nat) (r : w65816_t × Nat)
    (h : op_C6 step c pins = some r) :
    r.1.bcd_enabled = c.bcd_enabled ∧
    (sync_out r.2 = true ∨
      (r.1.IR = c.IR ∧ step + 1 < 8 ∧ (op_C6 (step + 1) (w65816_init false).1 0).isSome = true) ∨
      ((r.1.IR = (c.IR + 0) % 65536 ∨ r.1.IR = (c.IR + 1) % 65536) ∧ step + 2 < 8 ∧
        (op_C6 (step + 1) (w65816_init false).1 0).isSome = true ∧ (op_C6 (step + 2) (w65816_init false).1 0).isSome = true)) := by
  unfold op_C6 at h
  split at h
  case h_6 => exact Option.noConfusion h
  case h_4 =>
    cases h
    exact ⟨(dec_AD_NZ_frame c _ _ _).1, Or.inr (Or.inl ⟨(dec_AD_NZ_frame c _ _ _).2, by decide, Eq.refl true⟩)⟩
  all_goals cases h
  all_goals refine ⟨(by
    first
    | (dsimp only [_NZ] <;>
       repeat' (first | apply ite_bcd_of | apply ite_fst_bcd_of | rfl))
    | rfl), ?_⟩
  case h_5 => exact Or.inl (fetch_sync _ _)
  all_goals exact Or.inr (Or.inl ⟨(by
    first
    | (dsimp only [_NZ] <;>
       repeat' (first | apply ite_IR_of | apply ite_fst_IR_of | rfl))
    | rfl), by decide, Eq.refl true⟩)

theorem op_C7_isSome (step : Nat) (c : w65816_t) (pins : Nat) :
    (op_C7 step c pins).isSome = (op_C7 step (w65816_init false).1 0).isSome := by
  unfold op_C7
  split <;> first | exact Eq.refl true | exact Eq.refl false

theorem op_C7_live (step : Nat) (c : w65816_t) (pins : Nat) (r : w65816_t × Nat)
    (h : op_C7 step c pins = some r) :
    r.1.bcd_enabled = c.bcd_enabled ∧
    (sync_out r.2 = true ∨
      (r.1.IR = c.IR ∧ step + 1 < 8 ∧ (op_C7 (step + 1) (w65816_init false).1 0).isSome = true) ∨
      ((r.1.IR = (c.IR + 0) % 65536 ∨ r.1.IR = (c.IR + 1) % 65536) ∧ step + 2 < 8 ∧
        (op_C7 (step + 1) (w65816_init false).1 0).isSome = true ∧ (op_C7 (step + 2) (w65816_init false).1 0).isSome = true)) := by
  unfold op_C7 at h
  split at h
  case h_4 => exact Option.noConfusion h
  all_goals cases h
  all_goals refine ⟨(by
    first
    | (dsimp only [_w65816_cmp] <;>
       repeat' (first | apply ite_bcd_of | apply ite_fst_bcd_of | rfl))
    | rfl), ?_⟩
  case h_3 => exact Or.inl (fetch_sync _ _)
  all_goals exact Or.inr (Or.inl ⟨(by
    first
    | (dsimp only [_w65816_cmp] <;>
       repeat' (first | apply ite_IR_of | apply ite_fst_IR_of | rfl))
    | rfl), by decide, Eq.refl true⟩)

theorem op_C8_isSome (step : Nat) (c : w65816_t) (pins : Nat) :
    (op_C8 step c pins).isSome = (op_C8 step (w65816_init false).1 0).isSome := by
  unfold op_C8
  split <;> first | exact Eq.refl true | exact Eq.refl false

theorem op_C8_live (step : Nat) (c : w65816_t) (pins : Nat) (r : w65816_t × Nat)
    (h : op_C8 step c pins = some r) :
    r.1.bcd_enabled = c.bcd_enabled ∧
    (sync_out r.2 = true ∨
      (r.1.IR = c.IR ∧ step + 1 < 8 ∧ (op_C8 (step + 1) (w65816_init false).1 0).isSome = true) ∨
      ((r.1.IR = (c.IR + 0) % 65536 ∨ r.1.IR = (c.IR + 1) % 65536) ∧ step + 2 < 8 ∧
        (op_C8 (step + 1) (w65816_init false).1 0).isSome = true ∧ (op_C8 (step + 2) (w65816_init false).1 0).isSome = true)) := by
  unfold op_C8 at h
  split at h
  case h_3 => exact Option.noConfusion h
  all_goals cases h
  all_goals refine ⟨(by
    first
    | (dsimp only [set_Y, _NZ] <;>
       repeat' (first | apply ite_bcd_of | apply ite_fst_bcd_of | rfl))
    | rfl), ?_⟩
  case h_2 => exact Or.inl (fetch_sync _ _)
  all_goals exact Or.inr (Or.inl ⟨(by
    first
    | (dsimp only [set_Y, _NZ] <;>
       repeat' (first | apply ite_IR_of | apply ite_fst_IR_of | rfl))
    | rfl), by decide, Eq.refl true⟩)

theorem op_C9_isSome (step : Nat) (c : w65816_t) (pins : Nat) :
    (op_C9 step c pins).isSome = (op_C9 step (w65816_init false).1 0).isSome := by
  unfold op_C9
  split <;> first | exact Eq.refl true | exact Eq.refl false

theorem op_C9_live (step : Nat) (c : w65816_t) (pins : Nat) (r : w65816_t × Nat)
    (h : op_C9 step c pins = some r) :
    r.1.bcd_enabled = c.bcd_enabled ∧
    (sync_out r.2 = true ∨
      (r.1.IR = c.IR ∧ step + 1 < 8 ∧ (op_C9 (step + 1) (w65816_init false).1 0).isSome = true) ∨
      ((r.1.IR = (c.IR + 0) % 65536 ∨ r.1.IR = (c.IR + 1) % 65536) ∧ step + 2 < 8 ∧
        (op_C9 (step + 1) (w65816_init false).1 0).isSome = true ∧ (op_C9 (step + 2) (w65816_init false).1 0).isSome = true)) := by
  unfold op_C9 at h
  split at h
  case h_3 => exact Option.noConfusion h
  all_goals cases h
  all_goals refine ⟨(by
    first
    | (dsimp only [_w65816_cmp] <;>
       repeat' (first | apply ite_bcd_of | apply ite_fst_bcd_of | rfl))
    | rfl), ?_⟩
  case h_2 => exact Or.inl (fetch_sync _ _)
  all_goals exact Or.inr (Or.inl ⟨(by
    first
    | (dsimp only [_w65816_cmp] <;>
       repeat' (first | apply ite_IR_of | apply ite_fst_IR_of | rfl))
    | rfl), by decide, Eq.refl true⟩)

theorem op_CA_isSome (step : Nat) (c : w65816_t) (pins : Nat) :
    (op_CA step c pins).isSome = (op_CA step (w65816_init false).1 0).isSome := by
  unfold op_CA
  split <;> first | exact Eq.refl true | exact Eq.refl false

theorem op_CA_live (step : Nat) (c : w65816_t) (pins : Nat) (r : w65816_t × Nat)
    (h : op_CA step c pins = some r) :
    r.1.bcd_enabled = c.bcd_enabled ∧
    (sync_out r.2 = true ∨
      (r.1.IR = c.IR ∧ step + 1 < 8 ∧ (op_CA (step + 1) (w65816_init false).1 0).isSome = true) ∨
      ((r.1.IR = (c.IR + 0) % 65536 ∨ r.1.IR = (c.IR + 1) % 65536) ∧ step + 2 < 8 ∧
        (op_CA (step + 1) (w65816_init false).1 0).isSome = true ∧ (op_CA (step + 2) (w65816_init false).1 0).isSome = true)) := by
  unfold op_CA at h
  split at h
  case h_3 => exact Option.noConfusion h
  all_goals cases h
  all_goals refine ⟨(by
    first
    | (dsimp only [set_X, _NZ] <;>
       repeat' (first | apply ite_bcd_of | apply ite_fst_bcd_of | rfl))
    | rfl), ?_⟩
  case h_2 => exact Or.inl (fetch_sync _ _)
  all_goals exact Or.inr (Or.inl ⟨(by
    first
    | (dsimp only [set_X, _NZ] <;>
       repeat' (first | apply ite_IR_of | apply ite_fst_IR_of | rfl))
    | rfl), by decide, Eq.refl true⟩)

theorem op_CB_isSome (step : Nat) (c : w65816_t) (pins : Nat) :
    (op_CB step c pins).isSome = (op_CB step (w65816_init false).1 0).isSome := by
  unfold op_CB
  split <;> first | exact Eq.refl true | exact Eq.refl false

theorem op_CB_live (step : Nat) (c : w65816_t) (pins : Nat) (r : w65816_t × Nat)
    (h : op_CB step c pins = some r) :
    r.1.bcd_enabled = c.bcd_enabled ∧
    (sync_out r.2 = true ∨
      (r.1.IR = c.IR ∧ step + 1 < 8 ∧ (op_CB (step + 1) (w65816_init false).1 0).isSome = true) ∨
      ((r.1.IR = (c.IR + 0) % 65536 ∨ r.1.IR = (c.IR + 1) % 65536) ∧ step + 2 < 8 ∧
        (op_CB (step + 1) (w65816_init false).1 0).isSome = true ∧ (op_CB (step + 2) (w65816_init false).1 0).isSome = true)) := by
  unfold op_CB at h
  split at h
  case h_3 => exact Option.noConfusion h
  all_goals cases h
  all_goals refine ⟨(by
    first
    | (dsimp only [] <;>
       repeat' (first | apply ite_bcd_of | apply ite_fst_bcd_of | rfl))
    | rfl), ?_⟩
  case h_2 => exact Or.inl (fetch_sync _ _)
  all_goals exact Or.inr (Or.inl ⟨(by
    first
    | (dsimp only [] <;>
       repeat' (first | apply ite_IR_of | apply ite_fst_IR_of | rfl))
    | rfl), by decide, Eq.refl true⟩)

theorem op_CC_isSome (step : Nat) (c : w65816_t) (pins : Nat) :
    (op_CC step c pins).isSome = (op_CC step (w65816_init false).1 0).isSome := by
  unfold op_CC
  split <;> first | exact Eq.refl true | exact Eq.refl false

theorem op_CC_live (step : Nat) (c : w65816_t) (pins : Nat) (r : w65816_t × Nat)
    (h : op_CC step c pins = some r) :
    r.1.bcd_enabled = c.bcd_enabled ∧
    (sync_out r.2 = true ∨
      (r.1.IR = c.IR ∧ step + 1 < 8 ∧ (op_CC (step + 1) (w65816_init false).1 0).isSome = true) ∨
      ((r.1.IR = (c.IR + 0) % 65536 ∨ r.1.IR = (c.IR + 1) % 65536) ∧ step + 2 < 8 ∧
        (op_CC (step + 1) (w65816_init false).1 0).isSome = true ∧ (op_CC (step + 2) (w65816_init false).1 0).isSome = true)) := by
  unfold op_CC at h
  split at h
  case h_5 => exact Option.noConfusion h
  all_goals cases h
  all_goals refine ⟨(by
    first
    | (dsimp only [_w65816_cmp] <;>
       repeat' (first | apply ite_bcd_of | apply ite_fst_bcd_of | rfl))
    | rfl), ?_⟩
  case h_4 => exact Or.inl (fetch_sync _ _)
  all_goals exact Or.inr (Or.inl ⟨(by
    first
    | (dsimp only [_w65816_cmp] <;>
       repeat' (first | apply ite_IR_of | apply ite_fst_IR_of | rfl))
    | rfl), by decide, Eq.refl true⟩)

theorem op_CD_isSome (step : Nat) (c : w65816_t) (pins : Nat) :
    (op_CD step c pins).isSome = (op_CD step (w65816_init false).1 0).isSome := by
  unfold op_CD
  split <;> first | exact Eq.refl true | exact Eq.refl false

theorem op_CD_live (step : Nat) (c : w65816_t) (pins : Nat) (r : w65816_t × Nat)
    (h : op_CD step c pins = some r) :
    r.1.bcd_enabled = c.bcd_enabled ∧
    (sync_out r.2 = true ∨
      (r.1.IR = c.IR ∧ step + 1 < 8 ∧ (op_CD (step + 1) (w65816_init false).1 0).isSome = true) ∨
      ((r.1.IR = (c.IR + 0) % 65536 ∨ r.1.IR = (c.IR + 1) % 65536) ∧ step + 2 < 8 ∧
        (op_CD (step + 1) (w65816_init false).1 0).isSome = true ∧ (op_CD (step + 2) (w65816_init false).1 0).isSome = true)) := by
  unfold op_CD at h
  split at h
  case h_5 => exact Option.noConfusion h
  all_goals cases h
  all_goals refine ⟨(by
    first
    | (dsimp only [_w65816_cmp] <;>
       repeat' (first | apply ite_bcd_of | apply ite_fst_bcd_of | rfl))
    | rfl), ?_⟩
  case h_4 => exact Or.inl (fetch_sync _ _)
  all_goals exact Or.inr (Or.inl ⟨(by
    first
    | (dsimp only [_w65816_cmp] <;>
       repeat' (first | apply ite_IR_of | apply ite_fst_IR_of | rfl))
    | rfl), by decide, Eq.refl true⟩)

theorem op_CE_isSome (step : Nat) (c : w65816_t) (pins : Nat) :
    (op_CE step c pins).isSome = (op_CE step (w65816_init false).1 0).isSome := by
  unfold op_CE
  split <;> first | exact Eq.refl true | exact Eq.refl false

theorem op_CE_live (step : Nat) (c : w65816_t) (pins : Nat) (r : w65816_t × Nat)
    (h : op_CE step c pins = some r) :
    r.1.bcd_enabled = c.bcd_enabled ∧
    (sync_out r.2 = true ∨
      (r.1.IR = c.IR ∧ step + 1 < 8 ∧ (op_CE (step + 1) (w65816_init false).1 0).isSome = true) ∨
      ((r.1.IR = (c.IR + 0) % 65536 ∨ r.1.IR = (c.IR + 1) % 65536) ∧ step + 2 < 8 ∧
        (op_CE (step + 1) (w65816_init false).1 0).isSome = true ∧ (op_CE (step + 2) (w65816_init false).1 0).isSome = true)) := by
  unfold op_CE at h
  split at h
  case h_7 => exact Option.noConfusion h
  case h_5 =>
    cases h
    exact ⟨(dec_AD_NZ_frame c _ _ _).1, Or.inr (Or.inl ⟨(dec_AD_NZ_frame c _ _ _).2, by decide, Eq.refl true⟩)⟩
  all_goals cases h
  all_goals refine ⟨(by
    first
    | (dsimp only [_NZ] <;>
       repeat' (first | apply ite_bcd_of | apply ite_fst_bcd_of | rfl))
    | rfl), ?_⟩
  case h_6 => exact Or.inl (fetch_sync _ _)
  all_goals exact Or.inr (Or.inl ⟨(by
    first
    | (dsimp only [_NZ] <;>
       repeat' (first | apply ite_IR_of | apply ite_fst_IR_of | rfl))
    | rfl), by decide, Eq.refl true⟩)

theorem op_CF_isSome (step : Nat) (c : w65816_t) (pins : Nat) :
    (op_CF step c pins).isSome = (op_CF step (w65816_init false).1 0).isSome := by
  unfold op_CF
  split <;> first | exact Eq.refl true | exact Eq.refl false

theorem op_CF_live (step : Nat) (c : w65816_t) (pins : Nat) (r : w65816_t × Nat)
    (h : op_CF step c pins = some r) :
    r.1.bcd_enabled = c.bcd_enabled ∧
    (sync_out r.2 = true ∨
      (r.1.IR = c.IR ∧ step + 1 < 8 ∧ (op_CF (step + 1) (w65816_init false).1 0).isSome = true) ∨
      ((r.1.IR = (c.IR + 0) % 65536 ∨ r.1.IR = (c.IR + 1) % 65536) ∧ step + 2 < 8 ∧
        (op_CF (step + 1) (w65816_init false).1 0).isSome = true ∧ (op_CF (step + 2) (w65816_init false).1 0).isSome = true)) := by
  unfold op_CF at h
  split at h
  case h_4 => exact Option.noConfusion h
  all_goals cases h
  all_goals refine ⟨(by
    first
    | (dsimp only [_w65816_cmp] <;>
       repeat' (first | apply ite_bcd_of | apply ite_fst_bcd_of | rfl))
    | rfl), ?_⟩
  case h_3 => exact Or.inl (fetch_sync _ _)
  all_goals exact Or.inr (Or.inl ⟨(by
    first
    | (dsimp only [_w65816_cmp] <;>
       repeat' (first | apply ite_IR_of | apply ite_fst_IR_of | rfl))
    | rfl), by decide, Eq.refl true⟩)

theorem op_D0_isSome (step : Nat) (c : w65816_t) (pins : Nat) :
    (op_D0 step c pins).isSome = (op_D0 step (w65816_init false).1 0).isSome := by
  unfold op_D0
  split <;> first | exact Eq.refl true | exact Eq.refl false

theorem op_D0_live (step : Nat) (c : w65816_t) (pins : Nat) (r : w65816_t × Nat)
    (h : op_D0 step c pins = some r) :
    r.1.bcd_enabled = c.bcd_enabled ∧
    (sync_out r.2 = true ∨
      (r.1.IR = c.IR ∧ step + 1 < 8 ∧ (op_D0 (step + 1) (w65816_init false).1 0).isSome = true) ∨
      ((r.1.IR = (c.IR + 0) % 65536 ∨ r.1.IR = (c.IR + 1) % 65536) ∧ step + 2 < 8 ∧
        (op_D0 (step + 1) (w65816_init false).1 0).isSome = true ∧ (op_D0 (step + 2) (w65816_init false).1 0).isSome = true)) := by
  unfold op_D0 at h
  split at h
  case h_5 => exact Option.noConfusion h
  all_goals cases h
  all_goals refine ⟨(by
    first
    | (dsimp only [] <;>
       repeat' (first | apply ite_bcd_of | apply ite_fst_bcd_of | rfl))
    | rfl), ?_⟩
  case h_4 => exact Or.inl (fetch_sync _ _)
  all_goals exact Or.inr (Or.inl ⟨(by
    first
    | (dsimp only [] <;>
       repeat' (first | apply ite_IR_of | apply ite_fst_IR_of | rfl))
    | rfl), by decide, Eq.refl true⟩)

theorem op_D1_isSome (step : Nat) (c : w65816_t) (pins : Nat) :
    (op_D1 step c pins).isSome = (op_D1 step (w65816_init false).1 0).isSome := by
  unfold op_D1
  split <;> first | exact Eq.refl true | exact Eq.refl false

theorem op_D1_live (step : Nat) (c : w65816_t) (pins : Nat) (r : w65816_t × Nat)
    (h : op_D1 step c pins = some r) :
    r.1.bcd_enabled = c.bcd_enabled ∧
    (sync_out r.2 = true ∨
      (r.1.IR = c.IR ∧ step + 1 < 8 ∧ (op_D1 (step + 1) (w65816_init false).1 0).isSome = true) ∨
      ((r.1.IR = (c.IR + 0) % 65536 ∨ r.1.IR = (c.IR + 1) % 65536) ∧ step + 2 < 8 ∧
        (op_D1 (step + 1) (w65816_init false).1 0).isSome = true ∧ (op_D1 (step + 2) (w65816_init false).1 0).isSome = true)) := by
  unfold op_D1 at h
  split at h
  case h_7 => exact Option.noConfusion h
  all_goals cases h
  all_goals refine ⟨(by
    first
    | (dsimp only [_w65816_cmp] <;>
       repeat' (first | apply ite_bcd_of | apply ite_fst_bcd_of | rfl))
    | rfl), ?_⟩
  case h_4 => exact Or.inr (Or.inr ⟨skip_IR _ _, by decide, Eq.refl true, Eq.refl true⟩)
  case h_6 => exact Or.inl (fetch_sync _ _)
  all_goals exact Or.inr (Or.inl ⟨(by
    first
    | (dsimp only [_w65816_cmp] <;>
       repeat' (first | apply ite_IR_of | apply ite_fst_IR_of | rfl))
    | rfl), by decide, Eq.refl true⟩)

theorem op_D2_isSome (step : Nat) (c : w65816_t) (pins : Nat) :
    (op_D2 step c pins).isSome = (op_D2 step (w65816_init false).1 0).isSome := by
  unfold op_D2
  split <;> first | exact Eq.refl true | exact Eq.refl false

theorem op_D2_live (step : Nat) (c : w65816_t) (pins : Nat) (r : w65816_t × Nat)
    (h : op_D2 step c pins = some r) :
    r.1.bcd_enabled = c.bcd_enabled ∧
    (sync_out r.2 = true ∨
      (r.1.IR = c.IR ∧ step + 1 < 8 ∧ (op_D2 (step + 1) (w65816_init false).1 0).isSome = true) ∨
      ((r.1.IR = (c.IR + 0) % 65536 ∨ r.1.IR = (c.IR + 1) % 65536) ∧ step + 2 < 8 ∧
        (op_D2 (step + 1) (w65816_init false).1 0).isSome = true ∧ (op_D2 (step + 2) (w65816_init false).1 0).isSome = true)) := by
  unfold op_D2 at h
  split at h
  case h_4 => exact Option.noConfusion h
  all_goals cases h
  all_goals refine ⟨(by
    first
    | (dsimp only [_w65816_cmp] <;>
       repeat' (first | apply ite_bcd_of | apply ite_fst_bcd_of | rfl))
    | rfl), ?_⟩
  case h_3 => exact Or.inl (fetch_sync _ _)
  all_goals exact Or.inr (Or.inl ⟨(by
    first
    | (dsimp only [_w65816_cmp] <;>
       repeat' (first | apply ite_IR_of | apply ite_fst_IR_of | rfl))
    | rfl), by decide, Eq.refl true⟩)

theorem op_D3_isSome (step : Nat) (c : w65816_t) (pins : Nat) :
    (op_D3 step c pins).isSome = (op_D3 step (w65816_init false).1 0).isSome := by
  unfold op_D3
  split <;> first | exact Eq.refl true | exact Eq.refl false

theorem op_D3_live (step : Nat) (c : w65816_t) (pins : Nat) (r : w65816_t × Nat)
    (h : op_D3 step c pins = some r) :
    r.1.bcd_enabled = c.bcd_enabled ∧
    (sync_out r.2 = true ∨
      (r.1.IR = c.IR ∧ step + 1 < 8 ∧ (op_D3 (step + 1) (w65816_init false).1 0).isSome = true) ∨
      ((r.1.IR = (c.IR + 0) % 65536 ∨ r.1.IR = (c.IR + 1) % 65536) ∧ step + 2 < 8 ∧
        (op_D3 (step + 1) (w65816_init false).1 0).isSome = true ∧ (op_D3 (step + 2) (w65816_init false).1 0).isSome = true)) := by
  unfold op_D3 at h
  split at h
  case h_4 => exact Option.noConfusion h
  all_goals cases h
  all_goals refine ⟨(by
    first
    | (dsimp only [_w65816_cmp] <;>
       repeat' (first | apply ite_bcd_of | apply ite_fst_bcd_of | rfl))
    | rfl), ?_⟩
  case h_3 => exact Or.inl (fetch_sync _ _)
  all_goals exact Or.inr (Or.inl ⟨(by
    first
    | (dsimp only [_w65816_cmp] <;>
       repeat' (first | apply ite_IR_of | apply ite_fst_IR_of | rfl))
    | rfl), by decide, Eq.refl true⟩)

theorem op_D4_isSome (step : Nat) (c : w65816_t) (pins : Nat) :
    (op_D4 step c pins).isSome = (op_D4 step (w65816_init false).1 0).isSome := by
  unfold op_D4
  split <;> first | exact Eq.refl true | exact Eq.refl false

theorem op_D4_live (step : Nat) (c : w65816_t) (pins : Nat) (r : w65816_t × Nat)
    (h : op_D4 step c pins = some r) :
    r.1.bcd_enabled = c.bcd_enabled ∧
    (sync_out r.2 = true ∨
      (r.1.IR = c.IR ∧ step + 1 < 8 ∧ (op_D4 (step + 1) (w65816_init false).1 0).isSome = true) ∨
      ((r.1.IR = (c.IR + 0) % 65536 ∨ r.1.IR = (c.IR + 1) % 65536) ∧ step + 2 < 8 ∧
        (op_D4 (step + 1) (w65816_init false).1 0).isSome = true ∧ (op_D4 (step + 2) (w65816_init false).1 0).isSome = true)) := by
  unfold op_D4 at h
  split at h
  case h_3 => exact Option.noConfusion h
  all_goals cases h
  all_goals refine ⟨(by
    first
    | (dsimp only [] <;>
       repeat' (first | apply ite_bcd_of | apply ite_fst_bcd_of | rfl))
    | rfl), ?_⟩
  case h_2 => exact Or.inl (fetch_sync _ _)
  all_goals exact Or.inr (Or.inl ⟨(by
    first
    | (dsimp only [] <;>
       repeat' (first | apply ite_IR_of | apply ite_fst_IR_of | rfl))
    | rfl), by decide, Eq.refl true⟩)

theorem op_D5_isSome (step : Nat) (c : w65816_t) (pins : Nat) :
    (op_D5 step c pins).isSome = (op_D5 step (w65816_init false).1 0).isSome := by
  unfold op_D5
  split <;> first | exact Eq.refl true | exact Eq.refl false

theorem op_D5_live (step : Nat) (c : w65816_t) (pins : Nat) (r : w65816_t × Nat)
    (h : op_D5 step c pins = some r) :
    r.1.bcd_enabled = c.bcd_enabled ∧
    (sync_out r.2 = true ∨
      (r.1.IR = c.IR ∧ step + 1 < 8 ∧ (op_D5 (step + 1) (w65816_init false).1 0).isSome = true) ∨
      ((r.1.IR = (c.IR + 0) % 65536 ∨ r.1.IR = (c.IR + 1) % 65536) ∧ step + 2 < 8 ∧
        (op_D5 (step + 1) (w65816_init false).1 0).isSome = true ∧ (op_D5 (step + 2) (w65816_init false).1 0).isSome = true)) := by
  unfold op_D5 at h
  split at h
  case h_5 => exact Option.noConfusion h
  all_goals cases h
  all_goals refine ⟨(by
    first
    | (dsimp only [_w65816_cmp] <;>
       repeat' (first | apply ite_bcd_of | apply ite_fst_bcd_of | rfl))
    | rfl), ?_⟩
  case h_4 => exact Or.inl (fetch_sync _ _)
  all_goals exact Or.inr (Or.inl ⟨(by
    first
    | (dsimp only [_w65816_cmp] <;>
       repeat' (first | apply ite_IR_of | apply ite_fst_IR_of | rfl))
    | rfl), by decide, Eq.refl true⟩)

theorem op_D6_isSome (step : Nat) (c : w65816_t) (pins : Nat) :
    (op_D6 step c pins).isSome = (op_D6 step (w65816_init false).1 0).isSome := by
  unfold op_D6
  split <;> first | exact Eq.refl true | exact Eq.refl false

theorem op_D6_live (step : Nat) (c : w65816_t) (pins : Nat) (r : w65816_t × Nat)
    (h : op_D6 step c pins = some r) :
    r.1.bcd_enabled = c.bcd_enabled ∧
    (sync_out r.2 = true ∨
      (r.1.IR = c.IR ∧ step + 1 < 8 ∧ (op_D6 (step + 1) (w65816_init false).1 0).isSome = true) ∨
      ((r.1.IR = (c.IR + 0) % 65536 ∨ r.1.IR = (c.IR + 1) % 65536) ∧ step + 2 < 8 ∧
        (op_D6 (step + 1) (w65816_init false).1 0).isSome = true ∧ (op_D6 (step + 2) (w65816_init false).1 0).isSome = true)) := by
  unfold op_D6 at h
  split at h
  case h_7 => exact Option.noConfusion h
  case h_5 =>
    cases h
    exact ⟨(dec_AD_NZ_frame c _ _ _).1, Or.inr (Or.inl ⟨(dec_AD_NZ_frame c _ _ _).2, by decide, Eq.refl true⟩)⟩
  all_goals cases h
  all_goals refine ⟨(by
    first
    | (dsimp only [_NZ] <;>
       repeat' (first | apply ite_bcd_of | apply ite_fst_bcd_of | rfl))
    | rfl), ?_⟩
  case h_6 => exact Or.inl (fetch_sync _ _)
  all_goals exact Or.inr (Or.inl ⟨(by
    first
    | (dsimp only [_NZ] <;>
       repeat' (first | apply ite_IR_of | apply ite_fst_IR_of | rfl))
    | rfl), by decide, Eq.refl true⟩)

theorem op_D7_isSome (step : Nat) (c : w65816_t) (pins : Nat) :
    (op_D7 step c pins).isSome = (op_D7 step (w65816_init false).1 0).isSome := by
  unfold op_D7
  split <;> first | exact Eq.refl true | exact Eq.refl false

theorem op_D7_live (step : Nat) (c : w65816_t) (pins : Nat) (r : w65816_t × Nat)
    (h : op_D7 step c pins = some r) :
    r.1.bcd_enabled = c.bcd_enabled ∧
    (sync_out r.2 = true ∨
      (r.1.IR = c.IR ∧ step + 1 < 8 ∧ (op_D7 (step + 1) (w65816_init false).1 0).isSome = true) ∨
      ((r.1.IR = (c.IR + 0) % 65536 ∨ r.1.IR = (c.IR + 1) % 65536) ∧ step + 2 < 8 ∧
        (op_D7 (step + 1) (w65816_init false).1 0).isSome = true ∧ (op_D7 (step + 2) (w65816_init false).1 0).isSome = true)) := by
  unfold op_D7 at h
  split at h
  case h_4 => exact Option.noConfusion h
  all_goals cases h
  all_goals refine ⟨(by
    first
    | (dsimp only [_w65816_cmp] <;>
       repeat' (first | apply ite_bcd_of | apply ite_fst_bcd_of | rfl))
    | rfl), ?_⟩
  case h_3 => exact Or.inl (fetch_sync _ _)
  all_goals exact Or.inr (Or.inl ⟨(by
    first
    | (dsimp only [_w65816_cmp] <;>
       repeat' (first | apply ite_IR_of | apply ite_fst_IR_of | rfl))
    | rfl), by decide, Eq.refl true⟩)

theorem op_D8_isSome (step : Nat) (c : w65816_t) (pins : Nat) :
    (op_D8 step c pins).isSome = (op_D8 step (w65816_init false).1 0).isSome := by
  unfold op_D8
  split <;> first | exact Eq.refl true | exact Eq.refl false

theorem op_D8_live (step : Nat) (c : w65816_t) (pins : Nat) (r : w65816_t × Nat)
    (h : op_D8 step c pins = some r) :
    r.1.bcd_enabled = c.bcd_enabled ∧
    (sync_out r.2 = true ∨
      (r.1.IR = c.IR ∧ step + 1 < 8 ∧ (op_D8 (step + 1) (w65816_init false).1 0).isSome = true) ∨
      ((r.1.IR = (c.IR + 0) % 65536 ∨ r.1.IR = (c.IR + 1) % 65536) ∧ step + 2 < 8 ∧
        (op_D8 (step + 1) (w65816_init false).1 0).isSome = true ∧ (op_D8 (step + 2) (w65816_init false).1 0).isSome = true)) := by
  unfold op_D8 at h
  split at h
  case h_3 => exact Option.noConfusion h
  all_goals cases h
  all_goals refine ⟨(by
    first
    | (dsimp only [] <;>
       repeat' (first | apply ite_bcd_of | apply ite_fst_bcd_of | rfl))
    | rfl), ?_⟩
  case h_2 => exact Or.inl (fetch_sync _ _)
  all_goals exact Or.inr (Or.inl ⟨(by
    first
    | (dsimp only [] <;>
       repeat' (first | apply ite_IR_of | apply ite_fst_IR_of | rfl))
    | rfl), by decide, Eq.refl true⟩)

theorem op_D9_isSome (step : Nat) (c : w65816_t) (pins : Nat) :
    (op_D9 step c pins).isSome = (op_D9 step (w65816_init false).1 0).isSome := by
  unfold op_D9
  split <;> first | exact Eq.refl true | exact Eq.refl false

theorem op_D9_live (step : Nat) (c : w65816_t) (pins : Nat) (r : w65816_t × Nat)
    (h : op_D9 step c pins = some r) :
    r.1.bcd_enabled = c.bcd_enabled ∧
    (sync_out r.2 = true ∨
      (r.1.IR = c.IR ∧ step + 1 < 8 ∧ (op_D9 (step + 1) (w65816_init false).1 0).isSome = true) ∨
      ((r.1.IR = (c.IR + 0) % 65536 ∨ r.1.IR = (c.IR + 1) % 65536) ∧ step + 2 < 8 ∧
        (op_D9 (step + 1) (w65816_init false).1 0).isSome = true ∧ (op_D9 (step + 2) (w65816_init false).1 0).isSome = true)) := by
  unfold op_D9 at h
  split at h
  case h_6 => exact Option.noConfusion h
  all_goals cases h
  all_goals refine ⟨(by
    first
    | (dsimp only [_w65816_cmp] <;>
       repeat' (first | apply ite_bcd_of | apply ite_fst_bcd_of | rfl))
    | rfl), ?_⟩
  case h_3 => exact Or.inr (Or.inr ⟨skip_IR _ _, by decide, Eq.refl true, Eq.refl true⟩)
  case h_5 => exact Or.inl (fetch_sync _ _)
  all_goals exact Or.inr (Or.inl ⟨(by
    first
    | (dsimp only [_w65816_cmp] <;>
       repeat' (first | apply ite_IR_of | apply ite_fst_IR_of | rfl))
    | rfl), by decide, Eq.refl true⟩)

theorem op_DA_isSome (step : Nat) (c : w65816_t) (pins : Nat) :
    (op_DA step c pins).isSome = (op_DA step (w65816_init false).1 0).isSome := by
  unfold op_DA
  split <;> first | exact Eq.refl true | exact Eq.refl false

theorem op_DA_live (step : Nat) (c : w65816_t) (pins : Nat) (r : w65816_t × Nat)
    (h : op_DA step c pins = some r) :
    r.1.bcd_enabled = c.bcd_enabled ∧
    (sync_out r.2 = true ∨
      (r.1.IR = c.IR ∧ step + 1 < 8 ∧ (op_DA (step + 1) (w65816_init false).1 0).isSome = true) ∨
      ((r.1.IR = (c.IR + 0) % 65536 ∨ r.1.IR = (c.IR + 1) % 65536) ∧ step + 2 < 8 ∧
        (op_DA (step + 1) (w65816_init false).1 0).isSome = true ∧ (op_DA (step + 2) (w65816_init false).1 0).isSome = true)) := by
  unfold op_DA at h
  split at h
  case h_4 => exact Option.noConfusion h
  all_goals cases h
  all_goals refine ⟨(by
    first
    | (dsimp only [set_S] <;>
       repeat' (first | apply ite_bcd_of | apply ite_fst_bcd_of | rfl))
    | rfl), ?_⟩
  case h_3 => exact Or.inl (fetch_sync _ _)
  all_goals exact Or.inr (Or.inl ⟨(by
    first
    | (dsimp only [set_S] <;>
       repeat' (first | apply ite_IR_of | apply ite_fst_IR_of | rfl))
    | rfl), by decide, Eq.refl true⟩)

theorem op_DB_isSome (step : Nat) (c : w65816_t) (pins : Nat) :
    (op_DB step c pins).isSome = (op_DB step (w65816_init false).1 0).isSome := by
  unfold op_DB
  split <;> first | exact Eq.refl true | exact Eq.refl false

theorem op_DB_live (step : Nat) (c : w65816_t) (pins : Nat) (r : w65816_t × Nat)
    (h : op_DB step c pins = some r) :
    r.1.bcd_enabled = c.bcd_enabled ∧
    (sync_out r.2 = true ∨
      (r.1.IR = c.IR ∧ step + 1 < 8 ∧ (op_DB (step + 1) (w65816_init false).1 0).isSome = true) ∨
      ((r.1.IR = (c.IR + 0) % 65536 ∨ r.1.IR = (c.IR + 1) % 65536) ∧ step + 2 < 8 ∧
        (op_DB (step + 1) (w65816_init false).1 0).isSome = true ∧ (op_DB (step + 2) (w65816_init false).1 0).isSome = true)) := by
  unfold op_DB at h
  split at h
  case h_4 => exact Option.noConfusion h
  all_goals cases h
  all_goals refine ⟨(by
    first
    | (dsimp only [] <;>
       repeat' (first | apply ite_bcd_of | apply ite_fst_bcd_of | rfl))
    | rfl), ?_⟩
  case h_3 => exact Or.inl (fetch_sync _ _)
  all_goals exact Or.inr (Or.inl ⟨(by
    first
    | (dsimp only [] <;>
       repeat' (first | apply ite_IR_of | apply ite_fst_IR_of | rfl))
    | rfl), by decide, Eq.refl true⟩)

theorem op_DC_isSome (step : Nat) (c : w65816_t) (pins : Nat) :
    (op_DC step c pins).isSome = (op_DC step (w65816_init false).1 0).isSome := by
  unfold op_DC
  split <;> first | exact Eq.refl true | exact Eq.refl false

theorem op_DC_live (step : Nat) (c : w65816_t) (pins : Nat) (r : w65816_t × Nat)
    (h : op_DC step c pins = some r) :
    r.1.bcd_enabled = c.bcd_enabled ∧
    (sync_out r.2 = true ∨
      (r.1.IR = c.IR ∧ step + 1 < 8 ∧ (op_DC (step + 1) (w65816_init false).1 0).isSome = true) ∨
      ((r.1.IR = (c.IR + 0) % 65536 ∨ r.1.IR = (c.IR + 1) % 65536) ∧ step + 2 < 8 ∧
        (op_DC (step + 1) (w65816_init false).1 0).isSome = true ∧ (op_DC (step + 2) (w65816_init false).1 0).isSome = true)) := by
  unfold op_DC at h
  split at h
  case h_2 => exact Option.noConfusion h
  all_goals cases h
  all_goals refine ⟨(by
    first
    | (dsimp only [] <;>
       repeat' (first | apply ite_bcd_of | apply ite_fst_bcd_of | rfl))
    | rfl), ?_⟩
  case h_1 => exact Or.inl (fetch_sync _ _)

theorem op_DD_isSome (step : Nat) (c : w65816_t) (pins : Nat) :
    (op_DD step c pins).isSome = (op_DD step (w65816_init false).1 0).isSome := by
  unfold op_DD
  split <;> first | exact Eq.refl true | exact Eq.refl false

theorem op_DD_live (step : Nat) (c : w65816_t) (pins : Nat) (r : w65816_t × Nat)
    (h : op_DD step c pins = some r) :
    r.1.bcd_enabled = c.bcd_enabled ∧
    (sync_out r.2 = true ∨
      (r.1.IR = c.IR ∧ step + 1 < 8 ∧ (op_DD (step + 1) (w65816_init false).1 0).isSome = true) ∨
      ((r.1.IR = (c.IR + 0) % 65536 ∨ r.1.IR = (c.IR + 1) % 65536) ∧ step + 2 < 8 ∧
        (op_DD (step + 1) (w65816_init false).1 0).isSome = true ∧ (op_DD (step + 2) (w65816_init false).1 0).isSome = true)) := by
  unfold op_DD at h
  split at h
  case h_6 => exact Option.noConfusion h
  all_goals cases h
  all_goals refine ⟨(by
    first
    | (dsimp only [_w65816_cmp] <;>
       repeat' (first | apply ite_bcd_of | apply ite_fst_bcd_of | rfl))
    | rfl), ?_⟩
  case h_3 => exact Or.inr (Or.inr ⟨skip_IR _ _, by decide, Eq.refl true, Eq.refl true⟩)
  case h_5 => exact Or.inl (fetch_sync _ _)
  all_goals exact Or.inr (Or.inl ⟨(by
    first
    | (dsimp only [_w65816_cmp] <;>
       repeat' (first | apply ite_IR_of | apply ite_fst_IR_of | rfl))
    | rfl), by decide, Eq.refl true⟩)

theorem op_DE_isSome (step : Nat) (c : w65816_t) (pins : Nat) :
    (op_DE step c pins).isSome = (op_DE step (w65816_init false).1 0).isSome := by
  unfold op_DE
  split <;> first | exact Eq.refl true | exact Eq.refl false

theorem op_DE_live (step : Nat) (c : w65816_t) (pins : Nat) (r : w65816_t × Nat)
    (h : op_DE step c pins = some r) :
    r.1.bcd_enabled = c.bcd_enabled ∧
    (sync_out r.2 = true ∨
      (r.1.IR = c.IR ∧ step + 1 < 8 ∧ (op_DE (step + 1) (w65816_init false).1 0).isSome = true) ∨
      ((r.1.IR = (c.IR + 0) % 65536 ∨ r.1.IR = (c.IR + 1) % 65536) ∧ step + 2 < 8 ∧
        (op_DE (step + 1) (w65816_init false).1 0).isSome = true ∧ (op_DE (step + 2) (w65816_init false).1 0).isSome = true)) := by
  unfold op_DE at h
  split at h
  case h_8 => exact Option.noConfusion h
  case h_6 =>
    cases h
    exact ⟨(dec_AD_NZ_frame c _ _ _).1, Or.inr (Or.inl ⟨(dec_AD_NZ_frame c _ _ _).2, by decide, Eq.refl true⟩)⟩
  all_goals cases h
  all_goals refine ⟨(by
    first
    | (dsimp only [_NZ] <;>
       repeat' (first | apply ite_bcd_of | apply ite_fst_bcd_of | rfl))
    | rfl), ?_⟩
  case h_7 => exact Or.inl (fetch_sync _ _)
  all_goals exact Or.inr (Or.inl ⟨(by
    first
    | (dsimp only [_NZ] <;>
       repeat' (first | apply ite_IR_of | apply ite_fst_IR_of | rfl))
    | rfl), by decide, Eq.refl true⟩)

theorem op_DF_isSome (step : Nat) (c : w65816_t) (pins : Nat) :
    (op_DF step c pins).isSome = (op_DF step (w65816_init false).1 0).isSome := by
  unfold op_DF
  split <;> first | exact Eq.refl true | exact Eq.refl false

theorem op_DF_live (step : Nat) (c : w65816_t) (pins : Nat) (r : w65816_t × Nat)
    (h : op_DF step c pins = some r) :
    r.1.bcd_enabled = c.bcd_enabled ∧
    (sync_out r.2 = true ∨
      (r.1.IR = c.IR ∧ step + 1 < 8 ∧ (op_DF (step + 1) (w65816_init false).1 0).isSome = true) ∨
      ((r.1.IR = (c.IR + 0) % 65536 ∨ r.1.IR = (c.IR + 1) % 65536) ∧ step + 2 < 8 ∧
        (op_DF (step + 1) (w65816_init false).1 0).isSome = true ∧ (op_DF (step + 2) (w65816_init false).1 0).isSome = true)) := by
  unfold op_DF at h
  split at h
  case h_4 => exact Option.noConfusion h
  all_goals cases h
  all_goals refine ⟨(by
    first
    | (dsimp only [_w65816_cmp] <;>
       repeat' (first | apply ite_bcd_of | apply ite_fst_bcd_of | rfl))
    | rfl), ?_⟩
  case h_3 => exact Or.inl (fetch_sync _ _)
  all_goals exact Or.inr (Or.inl ⟨(by
    first
    | (dsimp only [_w65816_cmp] <;>
       repeat' (first | apply ite_IR_of | apply ite_fst_IR_of | rfl))
    | rfl), by decide, Eq.refl true⟩)

theorem op_E0_isSome (step : Nat) (c : w65816_t) (pins : Nat) :
    (op_E0 step c pins).isSome = (op_E0 step (w65816_init false).1 0).isSome := by
  unfold op_E0
  split <;> first | exact Eq.refl true | exact Eq.refl false

theorem op_E0_live (step : Nat) (c : w65816_t) (pins : Nat) (r : w65816_t × Nat)
    (h : op_E0 step c pins = some r) :
    r.1.bcd_enabled = c.bcd_enabled ∧
    (sync_out r.2 = true ∨
      (r.1.IR = c.IR ∧ step + 1 < 8 ∧ (op_E0 (step + 1) (w65816_init false).1 0).isSome = true) ∨
      ((r.1.IR = (c.IR + 0) % 65536 ∨ r.1.IR = (c.IR + 1) % 65536) ∧ step + 2 < 8 ∧
        (op_E0 (step + 1) (w65816_init false).1 0).isSome = true ∧ (op_E0 (step + 2) (w65816_init false).1 0).isSome = true)) := by
  unfold op_E0 at h
  split at h
  case h_3 => exact Option.noConfusion h
  all_goals cases h
  all_goals refine ⟨(by
    first
    | (dsimp only [_w65816_cmp] <;>
       repeat' (first | apply ite_bcd_of | apply ite_fst_bcd_of | rfl))
    | rfl), ?_⟩
  case h_2 => exact Or.inl (fetch_sync _ _)
  all_goals exact Or.inr (Or.inl ⟨(by
    first
    | (dsimp only [_w65816_cmp] <;>
       repeat' (first | apply ite_IR_of | apply ite_fst_IR_of | rfl))
    | rfl), by decide, Eq.refl true⟩)

theorem op_E1_isSome (step : Nat) (c : w65816_t) (pins : Nat) :
    (op_E1 step c pins).isSome = (op_E1 step (w65816_init false).1 0).isSome := by
  unfold op_E1
  split <;> first | exact Eq.refl true | exact Eq.refl false

theorem op_E1_live (step : Nat) (c : w65816_t) (pins : Nat) (r : w65816_t × Nat)
    (h : op_E1 step c pins = some r) :
    r.1.bcd_enabled = c.bcd_enabled ∧
    (sync_out r.2 = true ∨
      (r.1.IR = c.IR ∧ step + 1 < 8 ∧ (op_E1 (step + 1) (w65816_init false).1 0).isSome = true) ∨
      ((r.1.IR = (c.IR + 0) % 65536 ∨ r.1.IR = (c.IR + 1) % 65536) ∧ step + 2 < 8 ∧
        (op_E1 (step + 1) (w65816_init false).1 0).isSome = true ∧ (op_E1 (step + 2) (w65816_init false).1 0).isSome = true)) := by
  unfold op_E1 at h
  split at h
  case h_7 => exact Option.noConfusion h
  all_goals cases h
  all_goals refine ⟨(by
    first
    | (dsimp only [] <;>
       repeat' (first | apply ite_bcd_of | apply ite_fst_bcd_of | apply sbc_bcd_of | rfl))
    | rfl), ?_⟩
  case h_6 => exact Or.inl (fetch_sync _ _)
  all_goals exact Or.inr (Or.inl ⟨(by
    first
    | (dsimp only [] <;>
       repeat' (first | apply ite_IR_of | apply ite_fst_IR_of | apply sbc_IR_of | rfl))
    | rfl), by decide, Eq.refl true⟩)

theorem op_E2_isSome (step : Nat) (c : w65816_t) (pins : Nat) :
    (op_E2 step c pins).isSome = (op_E2 step (w65816_init false).1 0).isSome := by
  unfold op_E2
  split <;> first | exact Eq.refl true | exact Eq.refl false

theorem op_E2_live (step : Nat) (c : w65816_t) (pins : Nat) (r : w65816_t × Nat)
    (h : op_E2 step c pins = some r) :
    r.1.bcd_enabled = c.bcd_enabled ∧
    (sync_out r.2 = true ∨
      (r.1.IR = c.IR ∧ step + 1 < 8 ∧ (op_E2 (step + 1) (w65816_init false).1 0).isSome = true) ∨
      ((r.1.IR = (c.IR + 0) % 65536 ∨ r.1.IR = (c.IR + 1) % 65536) ∧ step + 2 < 8 ∧
        (op_E2 (step + 1) (w65816_init false).1 0).isSome = true ∧ (op_E2 (step + 2) (w65816_init false).1 0).isSome = true)) := by
  unfold op_E2 at h
  split at h
  case h_4 => exact Option.noConfusion h
  all_goals cases h
  all_goals refine ⟨(by
    first
    | (dsimp only [] <;>
       repeat' (first | apply ite_bcd_of | apply ite_fst_bcd_of | rfl))
    | rfl), ?_⟩
  case h_3 => exact Or.inl (fetch_sync _ _)
  all_goals exact Or.inr (Or.inl ⟨(by
    first
    | (dsimp only [] <;>
       repeat' (first | apply ite_IR_of | apply ite_fst_IR_of | rfl))
    | rfl), by decide, Eq.refl true⟩)

theorem op_E3_isSome (step : Nat) (c : w65816_t) (pins : Nat) :
    (op_E3 step c pins).isSome = (op_E3 step (w65816_init false).1 0).isSome := by
  unfold op_E3
  split <;> first | exact Eq.refl true | exact Eq.refl false

theorem op_E3_live (step : Nat) (c : w65816_t) (pins : Nat) (r : w65816_t × Nat)
    (h : op_E3 step c pins = some r) :
    r.1.bcd_enabled = c.bcd_enabled ∧
    (sync_out r.2 = true ∨
      (r.1.IR = c.IR ∧ step + 1 < 8 ∧ (op_E3 (step + 1) (w65816_init false).1 0).isSome = true) ∨
      ((r.1.IR = (c.IR + 0) % 65536 ∨ r.1.IR = (c.IR + 1) % 65536) ∧ step + 2 < 8 ∧
        (op_E3 (step + 1) (w65816_init false).1 0).isSome = true ∧ (op_E3 (step + 2) (w65816_init false).1 0).isSome = true)) := by
  unfold op_E3 at h
  split at h
  case h_4 => exact Option.noConfusion h
  all_goals cases h
  all_goals refine ⟨(by
    first
    | (dsimp only [] <;>
       repeat' (first | apply ite_bcd_of | apply ite_fst_bcd_of | apply sbc_bcd_of | rfl))
    | rfl), ?_⟩
  case h_3 => exact Or.inl (fetch_sync _ _)
  all_goals exact Or.inr (Or.inl ⟨(by
    first
    | (dsimp only [] <;>
       repeat' (first | apply ite_IR_of | apply ite_fst_IR_of | apply sbc_IR_of | rfl))
    | rfl), by decide, Eq.refl true⟩)

theorem op_E4_isSome (step : Nat) (c : w65816_t) (pins : Nat) :
    (op_E4 step c pins).isSome = (op_E4 step (w65816_init false).1 0).isSome := by
  unfold op_E4
  split <;> first | exact Eq.refl true | exact Eq.refl false

theorem op_E4_live (step : Nat) (c : w65816_t) (pins : Nat) (r : w65816_t × Nat)
    (h : op_E4 step c pins = some r) :
    r.1.bcd_enabled = c.bcd_enabled ∧
    (sync_out r.2 = true ∨
      (r.1.IR = c.IR ∧ step + 1 < 8 ∧ (op_E4 (step + 1) (w65816_init false).1 0).isSome = true) ∨
      ((r.1.IR = (c.IR + 0) % 65536 ∨ r.1.IR = (c.IR + 1) % 65536) ∧ step + 2 < 8 ∧
        (op_E4 (step + 1) (w65816_init false).1 0).isSome = true ∧ (op_E4 (step + 2) (w65816_init false).1 0).isSome = true)) := by
  unfold op_E4 at h
  split at h
  case h_4 => exact Option.noConfusion h
  all_goals cases h
  all_goals refine ⟨(by
    first
    | (dsimp only [_w65816_cmp] <;>
       repeat' (first | apply ite_bcd_of | apply ite_fst_bcd_of | rfl))
    | rfl), ?_⟩
  case h_3 => exact Or.inl (fetch_sync _ _)
  all_goals exact Or.inr (Or.inl ⟨(by
    first
    | (dsimp only [_w65816_cmp] <;>
       repeat' (first | apply ite_IR_of | apply ite_fst_IR_of | rfl))
    | rfl), by decide, Eq.refl true⟩)

theorem op_E5_isSome (step : Nat) (c : w65816_t) (pins : Nat) :
    (op_E5 step c pins).isSome = (op_E5 step (w65816_init false).1 0).isSome := by
  unfold op_E5
  split <;> first | exact Eq.refl true | exact Eq.refl false

theorem op_E5_live (step : Nat) (c : w65816_t) (pins : Nat) (r : w65816_t × Nat)
    (h : op_E5 step c pins = some r) :
    r.1.bcd_enabled = c.bcd_enabled ∧
    (sync_out r.2 = true ∨
      (r.1.IR = c.IR ∧ step + 1 < 8 ∧ (op_E5 (step + 1) (w65816_init false).1 0).isSome = true) ∨
      ((r.1.IR = (c.IR + 0) % 65536 ∨ r.1.IR = (c.IR + 1) % 65536) ∧ step + 2 < 8 ∧
        (op_E5 (step + 1) (w65816_init false).1 0).isSome = true ∧ (op_E5 (step + 2) (w65816_init false).1 0).isSome = true)) := by
  unfold op_E5 at h
  split at h
  case h_4 => exact Option.noConfusion h
  all_goals cases h
  all_goals refine ⟨(by
    first
    | (dsimp only [] <;>
       repeat' (first | apply ite_bcd_of | apply ite_fst_bcd_of | apply sbc_bcd_of | rfl))
    | rfl), ?_⟩
  case h_3 => exact Or.inl (fetch_sync _ _)
  all_goals exact Or.inr (Or.inl ⟨(by
    first
    | (dsimp only [] <;>
       repeat' (first | apply ite_IR_of | apply ite_fst_IR_of | apply sbc_IR_of | rfl))
    | rfl), by decide, Eq.refl true⟩)

theorem op_E6_isSome (step : Nat) (c : w65816_t) (pins : Nat) :
    (op_E6 step c pins).isSome = (op_E6 step (w65816_init false).1 0).isSome := by
  unfold op_E6
  split <;> first | exact Eq.refl true | exact Eq.refl false

theorem op_E6_live (step : Nat) (c : w65816_t) (pins : Nat) (r : w65816_t × Nat)
    (h : op_E6 step c pins = some r) :
    r.1.bcd_enabled = c.bcd_enabled ∧
    (sync_out r.2 = true ∨
      (r.1.IR = c.IR ∧ step + 1 < 8 ∧ (op_E6 (step + 1) (w65816_init false).1 0).isSome = true) ∨
      ((r.1.IR = (c.IR + 0) % 65536 ∨ r.1.IR = (c.IR + 1) % 65536) ∧ step + 2 < 8 ∧
        (op_E6 (step + 1) (w65816_init false).1 0).isSome = true ∧ (op_E6 (step + 2) (w65816_init false).1 0).isSome = true)) := by
  unfold op_E6 at h
  split at h
  case h_6 => exact Option.noConfusion h
  all_goals cases h
  all_goals refine ⟨(by
    first
    | (dsimp only [_NZ] <;>
       repeat' (first | apply ite_bcd_of | apply ite_fst_bcd_of | rfl))
    | rfl), ?_⟩
  case h_5 => exact Or.inl (fetch_sync _ _)
  all_goals exact Or.inr (Or.inl ⟨(by
    first
    | (dsimp only [_NZ] <;>
       repeat' (first | apply ite_IR_of | apply ite_fst_IR_of | rfl))
    | rfl), by decide, Eq.refl true⟩)

theorem op_E7_isSome (step : Nat) (c : w65816_t) (pins : Nat) :
    (op_E7 step c pins).isSome = (op_E7 step (w65816_init false).1 0).isSome := by
  unfold op_E7
  split <;> first | exact Eq.refl true | exact Eq.refl false

theorem op_E7_live (step : Nat) (c : w65816_t) (pins : Nat) (r : w65816_t × Nat)
    (h : op_E7 step c pins = some r) :
    r.1.bcd_enabled = c.bcd_enabled ∧
    (sync_out r.2 = true ∨
      (r.1.IR = c.IR ∧ step + 1 < 8 ∧ (op_E7 (step + 1) (w65816_init false).1 0).isSome = true) ∨
      ((r.1.IR = (c.IR + 0) % 65536 ∨ r.1.IR = (c.IR + 1) % 65536) ∧ step + 2 < 8 ∧
        (op_E7 (step + 1) (w65816_init false).1 0).isSome = true ∧ (op_E7 (step + 2) (w65816_init false).1 0).isSome = true)) := by
  unfold op_E7 at h
  split at h
  case h_4 => exact Option.noConfusion h
  all_goals cases h
  all_goals refine ⟨(by
    first
    | (dsimp only [] <;>
       repeat' (first | apply ite_bcd_of | apply ite_fst_bcd_of | apply sbc_bcd_of | rfl))
    | rfl), ?_⟩
  case h_3 => exact Or.inl (fetch_sync _ _)
  all_goals exact Or.inr (Or.inl ⟨(by
    first
    | (dsimp only [] <;>
       repeat' (first | apply ite_IR_of | apply ite_fst_IR_of | apply sbc_IR_of | rfl))
    | rfl), by decide, Eq.refl true⟩)

theorem op_E8_isSome (step : Nat) (c : w65816_t) (pins : Nat) :
    (op_E8 step c pins).isSome = (op_E8 step (w65816_init false).1 0).isSome := by
  unfold op_E8
  split <;> first | exact Eq.refl true | exact Eq.refl false

theorem op_E8_live (step : Nat) (c : w65816_t) (pins : Nat) (r : w65816_t × Nat)
    (h : op_E8 step c pins = some r) :
    r.1.bcd_enabled = c.bcd_enabled ∧
    (sync_out r.2 = true ∨
      (r.1.IR = c.IR ∧ step + 1 < 8 ∧ (op_E8 (step + 1) (w65816_init false).1 0).isSome = true) ∨
      ((r.1.IR = (c.IR + 0) % 65536 ∨ r.1.IR = (c.IR + 1) % 65536) ∧ step + 2 < 8 ∧
        (op_E8 (step + 1) (w65816_init false).1 0).isSome = true ∧ (op_E8 (step + 2) (w65816_init false).1 0).isSome = true)) := by
  unfold op_E8 at h
  split at h
  case h_3 => exact Option.noConfusion h
  all_goals cases h
  all_goals refine ⟨(by
    first
    | (dsimp only [set_X, _NZ] <;>
       repeat' (first | apply ite_bcd_of | apply ite_fst_bcd_of | rfl))
    | rfl), ?_⟩
  case h_2 => exact Or.inl (fetch_sync _ _)
  all_goals exact Or.inr (Or.inl ⟨(by
    first
    | (dsimp only [set_X, _NZ] <;>
       repeat' (first | apply ite_IR_of | apply ite_fst_IR_of | rfl))
    | rfl), by decide, Eq.refl true⟩)

theorem op_E9_isSome (step : Nat) (c : w65816_t) (pins : Nat) :
    (op_E9 step c pins).isSome = (op_E9 step (w65816_init false).1 0).isSome := by
  unfold op_E9
  split <;> first | exact Eq.refl true | exact Eq.refl false

theorem op_E9_live (step : Nat) (c : w65816_t) (pins : Nat) (r : w65816_t × Nat)
    (h : op_E9 step c pins = some r) :
    r.1.bcd_enabled = c.bcd_enabled ∧
    (sync_out r.2 = true ∨
      (r.1.IR = c.IR ∧ step + 1 < 8 ∧ (op_E9 (step + 1) (w65816_init false).1 0).isSome = true) ∨
      ((r.1.IR = (c.IR + 0) % 65536 ∨ r.1.IR = (c.IR + 1) % 65536) ∧ step + 2 < 8 ∧
        (op_E9 (step + 1) (w65816_init false).1 0).isSome = true ∧ (op_E9 (step + 2) (w65816_init false).1 0).isSome = true)) := by
  unfold op_E9 at h
  split at h
  case h_3 => exact Option.noConfusion h
  all_goals cases h
  all_goals refine ⟨(by
    first
    | (dsimp only [] <;>
       repeat' (first | apply ite_bcd_of | apply ite_fst_bcd_of | apply sbc_bcd_of | rfl))
    | rfl), ?_⟩
  case h_2 => exact Or.inl (fetch_sync _ _)
  all_goals exact Or.inr (Or.inl ⟨(by
    first
    | (dsimp only [] <;>
       repeat' (first | apply ite_IR_of | apply ite_fst_IR_of | apply sbc_IR_of | rfl))
    | rfl), by decide, Eq.refl true⟩)

theorem op_EA_isSome (step : Nat) (c : w65816_t) (pins : Nat) :
    (op_EA step c pins).isSome = (op_EA step (w65816_init false).1 0).isSome := by
  unfold op_EA
  split <;> first | exact Eq.refl true | exact Eq.refl false

theorem op_EA_live (step : Nat) (c : w65816_t) (pins : Nat) (r : w65816_t × Nat)
    (h : op_EA step c pins = some r) :
    r.1.bcd_enabled = c.bcd_enabled ∧
    (sync_out r.2 = true ∨
      (r.1.IR = c.IR ∧ step + 1 < 8 ∧ (op_EA (step + 1) (w65816_init false).1 0).isSome = true) ∨
      ((r.1.IR = (c.IR + 0) % 65536 ∨ r.1.IR = (c.IR + 1) % 65536) ∧ step + 2 < 8 ∧
        (op_EA (step + 1) (w65816_init false).1 0).isSome = true ∧ (op_EA (step + 2) (w65816_init false).1 0).isSome = true)) := by
  unfold op_EA at h
  split at h
  case h_3 => exact Option.noConfusion h
  all_goals cases h
  all_goals refine ⟨(by
    first
    | (dsimp only [] <;>
       repeat' (first | apply ite_bcd_of | apply ite_fst_bcd_of | rfl))
    | rfl), ?_⟩
  case h_2 => exact Or.inl (fetch_sync _ _)
  all_goals exact Or.inr (Or.inl ⟨(by
    first
    | (dsimp only [] <;>
       repeat' (first | apply ite_IR_of | apply ite_fst_IR_of | rfl))
    | rfl), by decide, Eq.refl true⟩)

theorem op_EB_isSome (step : Nat) (c : w65816_t) (pins : Nat) :
    (op_EB step c pins).isSome = (op_EB step (w65816_init false).1 0).isSome := by
  unfold op_EB
  split <;> first | exact Eq.refl true | exact Eq.refl false

theorem op_EB_live (step : Nat) (c : w65816_t) (pins : Nat) (r : w65816_t × Nat)
    (h : op_EB step c pins = some r) :
    r.1.bcd_enabled = c.bcd_enabled ∧
    (sync_out r.2 = true ∨
      (r.1.IR = c.IR ∧ step + 1 < 8 ∧ (op_EB (step + 1) (w65816_init false).1 0).isSome = true) ∨
      ((r.1.IR = (c.IR + 0) % 65536 ∨ r.1.IR = (c.IR + 1) % 65536) ∧ step + 2 < 8 ∧
        (op_EB (step + 1) (w65816_init false).1 0).isSome = true ∧ (op_EB (step + 2) (w65816_init false).1 0).isSome = true)) := by
  unfold op_EB at h
  split at h
  case h_4 => exact Option.noConfusion h
  all_goals cases h
  all_goals refine ⟨(by
    first
    | (dsimp only [set_A, set_B, _w65816_xba] <;>
       repeat' (first | apply ite_bcd_of | apply ite_fst_bcd_of | rfl))
    | rfl), ?_⟩
  case h_3 => exact Or.inl (fetch_sync _ _)
  all_goals exact Or.inr (Or.inl ⟨(by
    first
    | (dsimp only [set_A, set_B, _w65816_xba] <;>
       repeat' (first | apply ite_IR_of | apply ite_fst_IR_of | rfl))
    | rfl), by decide, Eq.refl true⟩)

theorem op_EC_isSome (step : Nat) (c : w65816_t) (pins : Nat) :
    (op_EC step c pins).isSome = (op_EC step (w65816_init false).1 0).isSome := by
  unfold op_EC
  split <;> first | exact Eq.refl true | exact Eq.refl false

theorem op_EC_live (step : Nat) (c : w65816_t) (pins : Nat) (r : w65816_t × Nat)
    (h : op_EC step c pins = some r) :
    r.1.bcd_enabled = c.bcd_enabled ∧
    (sync_out r.2 = true ∨
      (r.1.IR = c.IR ∧ step + 1 < 8 ∧ (op_EC (step + 1) (w65816_init false).1 0).isSome = true) ∨
      ((r.1.IR = (c.IR + 0) % 65536 ∨ r.1.IR = (c.IR + 1) % 65536) ∧ step + 2 < 8 ∧
        (op_EC (step + 1) (w65816_init false).1 0).isSome = true ∧ (op_EC (step + 2) (w65816_init false).1 0).isSome = true)) := by
  unfold op_EC at h
  split at h
  case h_5 => exact Option.noConfusion h
  all_goals cases h
  all_goals refine ⟨(by
    first
    | (dsimp only [_w65816_cmp] <;>
       repeat' (first | apply ite_bcd_of | apply ite_fst_bcd_of | rfl))
    | rfl), ?_⟩
  case h_4 => exact Or.inl (fetch_sync _ _)
  all_goals exact Or.inr (Or.inl ⟨(by
    first
    | (dsimp only [_w65816_cmp] <;>
       repeat' (first | apply ite_IR_of | apply ite_fst_IR_of | rfl))
    | rfl), by decide, Eq.refl true⟩)

theorem op_ED_isSome (step : Nat) (c : w65816_t) (pins : Nat) :
    (op_ED step c pins).isSome = (op_ED step (w65816_init false).1 0).isSome := by
  unfold op_ED
  split <;> first | exact Eq.refl true | exact Eq.refl false

theorem op_ED_live (step : Nat) (c : w65816_t) (pins : Nat) (r : w65816_t × Nat)
    (h : op_ED step c pins = some r) :
    r.1.bcd_enabled = c.bcd_enabled ∧
    (sync_out r.2 = true ∨
      (r.1.IR = c.IR ∧ step + 1 < 8 ∧ (op_ED (step + 1) (w65816_init false).1 0).isSome = true) ∨
      ((r.1.IR = (c.IR + 0) % 65536 ∨ r.1.IR = (c.IR + 1) % 65536) ∧ step + 2 < 8 ∧
        (op_ED (step + 1) (w65816_init false).1 0).isSome = true ∧ (op_ED (step + 2) (w65816_init false).1 0).isSome = true)) := by
  unfold op_ED at h
  split at h
  case h_5 => exact Option.noConfusion h
  all_goals cases h
  all_goals refine ⟨(by
    first
    | (dsimp only [] <;>
       repeat' (first | apply ite_bcd_of | apply ite_fst_bcd_of | apply sbc_bcd_of | rfl))
    | rfl), ?_⟩
  case h_4 => exact Or.inl (fetch_sync _ _)
  all_goals exact Or.inr (Or.inl ⟨(by
    first
    | (dsimp only [] <;>
       repeat' (first | apply ite_IR_of | apply ite_fst_IR_of | apply sbc_IR_of | rfl))
    | rfl), by decide, Eq.refl true⟩)

theorem op_EE_isSome (step : Nat) (c : w65816_t) (pins : Nat) :
    (op_EE step c pins).isSome = (op_EE step (w65816_init false).1 0).isSome := by
  unfold op_EE
  split <;> first | exact Eq.refl true | exact Eq.refl false

theorem op_EE_live (step : Nat) (c : w65816_t) (pins : Nat) (r : w65816_t × Nat)
    (h : op_EE step c pins = some r) :
    r.1.bcd_enabled = c.bcd_enabled ∧
    (sync_out r.2 = true ∨
      (r.1.IR = c.IR ∧ step + 1 < 8 ∧ (op_EE (step + 1) (w65816_init false).1 0).isSome = true) ∨
      ((r.1.IR = (c.IR + 0) % 65536 ∨ r.1.IR = (c.IR + 1) % 65536) ∧ step + 2 < 8 ∧
        (op_EE (step + 1) (w65816_init false).1 0).isSome = true ∧ (op_EE (step + 2) (w65816_init false).1 0).isSome = true)) := by
  unfold op_EE at h
  split at h
  case h_7 => exact Option.noConfusion h
  all_goals cases h
  all_goals refine ⟨(by
    first
    | (dsimp only [_NZ] <;>
       repeat' (first | apply ite_bcd_of | apply ite_fst_bcd_of | rfl))
    | rfl), ?_⟩
  case h_6 => exact Or.inl (fetch_sync _ _)
  all_goals exact Or.inr (Or.inl ⟨(by
    first
    | (dsimp only [_NZ] <;>
       repeat' (first | apply ite_IR_of | apply ite_fst_IR_of | rfl))
    | rfl), by decide, Eq.refl true⟩)

theorem op_EF_isSome (step : Nat) (c : w65816_t) (pins : Nat) :
    (op_EF step c pins).isSome = (op_EF step (w65816_init false).1 0).isSome := by
  unfold op_EF
  split <;> first | exact Eq.refl true | exact Eq.refl false

theorem op_EF_live (step : Nat) (c : w65816_t) (pins : Nat) (r : w65816_t × Nat)
    (h : op_EF step c pins = some r) :
    r.1.bcd_enabled = c.bcd_enabled ∧
    (sync_out r.2 = true ∨
      (r.1.IR = c.IR ∧ step + 1 < 8 ∧ (op_EF (step + 1) (w65816_init false).1 0).isSome = true) ∨
      ((r.1.IR = (c.IR + 0) % 65536 ∨ r.1.IR = (c.IR + 1) % 65536) ∧ step + 2 < 8 ∧
        (op_EF (step + 1) (w65816_init false).1 0).isSome = true ∧ (op_EF (step + 2) (w65816_init false).1 0).isSome = true)) := by
  unfold op_EF at h
  split at h
  case h_4 => exact Option.noConfusion h
  all_goals cases h
  all_goals refine ⟨(by
    first
    | (dsimp only [] <;>
       repeat' (first | apply ite_bcd_of | apply ite_fst_bcd_of | apply sbc_bcd_of | rfl))
    | rfl), ?_⟩
  case h_3 => exact Or.inl (fetch_sync _ _)
  all_goals exact Or.inr (Or.inl ⟨(by
    first
    | (dsimp only [] <;>
       repeat' (first | apply ite_IR_of | apply ite_fst_IR_of | apply sbc_IR_of | rfl))
    | rfl), by decide, Eq.refl true⟩)

theorem op_F0_isSome (step : Nat) (c : w65816_t) (pins : Nat) :
    (op_F0 step c pins).isSome = (op_F0 step (w65816_init false).1 0).isSome := by
  unfold op_F0
  split <;> first | exact Eq.refl true | exact Eq.refl false

theorem op_F0_live (step : Nat) (c : w65816_t) (pins : Nat) (r : w65816_t × Nat)
    (h : op_F0 step c pins = some r) :
    r.1.bcd_enabled = c.bcd_enabled ∧
    (sync_out r.2 = true ∨
      (r.1.IR = c.IR ∧ step + 1 < 8 ∧ (op_F0 (step + 1) (w65816_init false).1 0).isSome = true) ∨
      ((r.1.IR = (c.IR + 0) % 65536 ∨ r.1.IR = (c.IR + 1) % 65536) ∧ step + 2 < 8 ∧
        (op_F0 (step + 1) (w65816_init false).1 0).isSome = true ∧ (op_F0 (step + 2) (w65816_init false).1 0).isSome = true)) := by
  unfold op_F0 at h
  split at h
  case h_5 => exact Option.noConfusion h
  all_goals cases h
  all_goals refine ⟨(by
    first
    | (dsimp only [] <;>
       repeat' (first | apply ite_bcd_of | apply ite_fst_bcd_of | rfl))
    | rfl), ?_⟩
  case h_4 => exact Or.inl (fetch_sync _ _)
  all_goals exact Or.inr (Or.inl ⟨(by
    first
    | (dsimp only [] <;>
       repeat' (first | apply ite_IR_of | apply ite_fst_IR_of | rfl))
    | rfl), by decide, Eq.refl true⟩)

theorem op_F1_isSome (step : Nat) (c : w65816_t) (pins : Nat) :
    (op_F1 step c pins).isSome = (op_F1 step (w65816_init false).1 0).isSome := by
  unfold op_F1
  split <;> first | exact Eq.refl true | exact Eq.refl false

theorem op_F1_live (step : Nat) (c : w65816_t) (pins : Nat) (r : w65816_t × Nat)
    (h : op_F1 step c pins = some r) :
    r.1.bcd_enabled = c.bcd_enabled ∧
    (sync_out r.2 = true ∨
      (r.1.IR = c.IR ∧ step + 1 < 8 ∧ (op_F1 (step + 1) (w65816_init false).1 0).isSome = true) ∨
      ((r.1.IR = (c.IR + 0) % 65536 ∨ r.1.IR = (c.IR + 1) % 65536) ∧ step + 2 < 8 ∧
        (op_F1 (step + 1) (w65816_init false).1 0).isSome = true ∧ (op_F1 (step + 2) (w65816_init false).1 0).isSome = true)) := by
  unfold op_F1 at h
  split at h
  case h_7 => exact Option.noConfusion h
  all_goals cases h
  all_goals refine ⟨(by
    first
    | (dsimp only [] <;>
       repeat' (first | apply ite_bcd_of | apply ite_fst_bcd_of | apply sbc_bcd_of | rfl))
    | rfl), ?_⟩
  case h_4 => exact Or.inr (Or.inr ⟨skip_IR _ _, by decide, Eq.refl true, Eq.refl true⟩)
  case h_6 => exact Or.inl (fetch_sync _ _)
  all_goals exact Or.inr (Or.inl ⟨(by
    first
    | (dsimp only [] <;>
       repeat' (first | apply ite_IR_of | apply ite_fst_IR_of | apply sbc_IR_of | rfl))
    | rfl), by decide, Eq.refl true⟩)

theorem op_F2_isSome (step : Nat) (c : w65816_t) (pins : Nat) :
    (op_F2 step c pins).isSome = (op_F2 step (w65816_init false).1 0).isSome := by
  unfold op_F2
  split <;> first | exact Eq.refl true | exact Eq.refl false

theorem op_F2_live (step : Nat) (c : w65816_t) (pins : Nat) (r : w65816_t × Nat)
    (h : op_F2 step c pins = some r) :
    r.1.bcd_enabled = c.bcd_enabled ∧
    (sync_out r.2 = true ∨
      (r.1.IR = c.IR ∧ step + 1 < 8 ∧ (op_F2 (step + 1) (w65816_init false).1 0).isSome = true) ∨
      ((r.1.IR = (c.IR + 0) % 65536 ∨ r.1.IR = (c.IR + 1) % 65536) ∧ step + 2 < 8 ∧
        (op_F2 (step + 1) (w65816_init false).1 0).isSome = true ∧ (op_F2 (step + 2) (w65816_init false).1 0).isSome = true)) := by
  unfold op_F2 at h
  split at h
  case h_4 => exact Option.noConfusion h
  all_goals cases h
  all_goals refine ⟨(by
    first
    | (dsimp only [] <;>
       repeat' (first | apply ite_bcd_of | apply ite_fst_bcd_of | apply sbc_bcd_of | rfl))
    | rfl), ?_⟩
  case h_3 => exact Or.inl (fetch_sync _ _)
  all_goals exact Or.inr (Or.inl ⟨(by
    first
    | (dsimp only [] <;>
       repeat' (first | apply ite_IR_of | apply ite_fst_IR_of | apply sbc_IR_of | rfl))
    | rfl), by decide, Eq.refl true⟩)

theorem op_F3_isSome (step : Nat) (c : w65816_t) (pins : Nat) :
    (op_F3 step c pins).isSome = (op_F3 step (w65816_init false).1 0).isSome := by
  unfold op_F3
  split <;> first | exact Eq.refl true | exact Eq.refl false

theorem op_F3_live (step : Nat) (c : w65816_t) (pins : Nat) (r : w65816_t × Nat)
    (h : op_F3 step c pins = some r) :
    r.1.bcd_enabled = c.bcd_enabled ∧
    (sync_out r.2 = true ∨
      (r.1.IR = c.IR ∧ step + 1 < 8 ∧ (op_F3 (step + 1) (w65816_init false).1 0).isSome = true) ∨
      ((r.1.IR = (c.IR + 0) % 65536 ∨ r.1.IR = (c.IR + 1) % 65536) ∧ step + 2 < 8 ∧
        (op_F3 (step + 1) (w65816_init false).1 0).isSome = true ∧ (op_F3 (step + 2) (w65816_init false).1 0).isSome = true)) := by
  unfold op_F3 at h
  split at h
  case h_4 => exact Option.noConfusion h
  all_goals cases h
  all_goals refine ⟨(by
    first
    | (dsimp only [] <;>
       repeat' (first | apply ite_bcd_of | apply ite_fst_bcd_of | apply sbc_bcd_of | rfl))
    | rfl), ?_⟩
  case h_3 => exact Or.inl (fetch_sync _ _)
  all_goals exact Or.inr (Or.inl ⟨(by
    first
    | (dsimp only [] <;>
       repeat' (first | apply ite_IR_of | apply ite_fst_IR_of | apply sbc_IR_of | rfl))
    | rfl), by decide, Eq.refl true⟩)

theorem op_F4_isSome (step : Nat) (c : w65816_t) (pins : Nat) :
    (op_F4 step c pins).isSome = (op_F4 step (w65816_init false).1 0).isSome := by
  unfold op_F4
  split <;> first | exact Eq.refl true | exact Eq.refl false

theorem op_F4_live (step : Nat) (c : w65816_t) (pins : Nat) (r : w65816_t × Nat)
    (h : op_F4 step c pins = some r) :
    r.1.bcd_enabled = c.bcd_enabled ∧
    (sync_out r.2 = true ∨
      (r.1.IR = c.IR ∧ step + 1 < 8 ∧ (op_F4 (step + 1) (w65816_init false).1 0).isSome = true) ∨
      ((r.1.IR = (c.IR + 0) % 65536 ∨ r.1.IR = (c.IR + 1) % 65536) ∧ step + 2 < 8 ∧
        (op_F4 (step + 1) (w65816_init false).1 0).isSome = true ∧ (op_F4 (step + 2) (w65816_init false).1 0).isSome = true)) := by
  unfold op_F4 at h
  split at h
  case h_3 => exact Option.noConfusion h
  all_goals cases h
  all_goals refine ⟨(by
    first
    | (dsimp only [] <;>
       repeat' (first | apply ite_bcd_of | apply ite_fst_bcd_of | rfl))
    | rfl), ?_⟩
  case h_2 => exact Or.inl (fetch_sync _ _)
  all_goals exact Or.inr (Or.inl ⟨(by
    first
    | (dsimp only [] <;>
       repeat' (first | apply ite_IR_of | apply ite_fst_IR_of | rfl))
    | rfl), by decide, Eq.refl true⟩)

theorem op_F5_isSome (step : Nat) (c : w65816_t) (pins : Nat) :
    (op_F5 step c pins).isSome = (op_F5 step (w65816_init false).1 0).isSome := by
  unfold op_F5
  split <;> first | exact Eq.refl true | exact Eq.refl false

theorem op_F5_live (step : Nat) (c : w65816_t) (pins : Nat) (r : w65816_t × Nat)
    (h : op_F5 step c pins = some r) :
    r.1.bcd_enabled = c.bcd_enabled ∧
    (sync_out r.2 = true ∨
      (r.1.IR = c.IR ∧ step + 1 < 8 ∧ (op_F5 (step + 1) (w65816_init false).1 0).isSome = true) ∨
      ((r.1.IR = (c.IR + 0) % 65536 ∨ r.1.IR = (c.IR + 1) % 65536) ∧ step + 2 < 8 ∧
        (op_F5 (step + 1) (w65816_init false).1 0).isSome = true ∧ (op_F5 (step + 2) (w65816_init false).1 0).isSome = true)) := by
  unfold op_F5 at h
  split at h
  case h_5 => exact Option.noConfusion h
  all_goals cases h
  all_goals refine ⟨(by
    first
    | (dsimp only [] <;>
       repeat' (first | apply ite_bcd_of | apply ite_fst_bcd_of | apply sbc_bcd_of | rfl))
    | rfl), ?_⟩
  case h_4 => exact Or.inl (fetch_sync _ _)
  all_goals exact Or.inr (Or.inl ⟨(by
    first
    | (dsimp only [] <;>
       repeat' (first | apply ite_IR_of | apply ite_fst_IR_of | apply sbc_IR_of | rfl))
    | rfl), by decide, Eq.refl true⟩)

theorem op_F6_isSome (step : Nat) (c : w65816_t) (pins : Nat) :
    (op_F6 step c pins).isSome = (op_F6 step (w65816_init false).1 0).isSome := by
  unfold op_F6
  split <;> first | exact Eq.refl true | exact Eq.refl false

theorem op_F6_live (step : Nat) (c : w65816_t) (pins : Nat) (r : w65816_t × Nat)
    (h : op_F6 step c pins = some r) :
    r.1.bcd_enabled = c.bcd_enabled ∧
    (sync_out r.2 = true ∨
      (r.1.IR = c.IR ∧ step + 1 < 8 ∧ (op_F6 (step + 1) (w65816_init false).1 0).isSome = true) ∨
      ((r.1.IR = (c.IR + 0) % 65536 ∨ r.1.IR = (c.IR + 1) % 65536) ∧ step + 2 < 8 ∧
        (op_F6 (step + 1) (w65816_init false).1 0).isSome = true ∧ (op_F6 (step + 2) (w65816_init false).1 0).isSome = true)) := by
  unfold op_F6 at h
  split at h
  case h_7 => exact Option.noConfusion h
  all_goals cases h
  all_goals refine ⟨(by
    first
    | (dsimp only [_NZ] <;>
       repeat' (first | apply ite_bcd_of | apply ite_fst_bcd_of | rfl))
    | rfl), ?_⟩
  case h_6 => exact Or.inl (fetch_sync _ _)
  all_goals exact Or.inr (Or.inl ⟨(by
    first
    | (dsimp only [_NZ] <;>
       repeat' (first | apply ite_IR_of | apply ite_fst_IR_of | rfl))
    | rfl), by decide, Eq.refl true⟩)

theorem op_F7_isSome (step : Nat) (c : w65816_t) (pins : Nat) :
    (op_F7 step c pins).isSome = (op_F7 step (w65816_init false).1 0).isSome := by
  unfold op_F7
  split <;> first | exact Eq.refl true | exact Eq.refl false

theorem op_F7_live (step : Nat) (c : w65816_t) (pins : Nat) (r : w65816_t × Nat)
    (h : op_F7 step c pins = some r) :
    r.1.bcd_enabled = c.bcd_enabled ∧
    (sync_out r.2 = true ∨
      (r.1.IR = c.IR ∧ step + 1 < 8 ∧ (op_F7 (step + 1) (w65816_init false).1 0).isSome = true) ∨
      ((r.1.IR = (c.IR + 0) % 65536 ∨ r.1.IR = (c.IR + 1) % 65536) ∧ step + 2 < 8 ∧
        (op_F7 (step + 1) (w65816_init false).1 0).isSome = true ∧ (op_F7 (step + 2) (w65816_init false).1 0).isSome = true)) := by
  unfold op_F7 at h
  split at h
  case h_4 => exact Option.noConfusion h
  all_goals cases h
  all_goals refine ⟨(by
    first
    | (dsimp only [] <;>
       repeat' (first | apply ite_bcd_of | apply ite_fst_bcd_of | apply sbc_bcd_of | rfl))
    | rfl), ?_⟩
  case h_3 => exact Or.inl (fetch_sync _ _)
  all_goals exact Or.inr (Or.inl ⟨(by
    first
    | (dsimp only [] <;>
       repeat' (first | apply ite_IR_of | apply ite_fst_IR_of | apply sbc_IR_of | rfl))
    | rfl), by decide, Eq.refl true⟩)

theorem op_F8_isSome (step : Nat) (c : w65816_t) (pins : Nat) :
    (op_F8 step c pins).isSome = (op_F8 step (w65816_init false).1 0).isSome := by
  unfold op_F8
  split <;> first | exact Eq.refl true | exact Eq.refl false

theorem op_F8_live (step : Nat) (c : w65816_t) (pins : Nat) (r : w65816_t × Nat)
    (h : op_F8 step c pins = some r) :
    r.1.bcd_enabled = c.bcd_enabled ∧
    (sync_out r.2 = true ∨
      (r.1.IR = c.IR ∧ step + 1 < 8 ∧ (op_F8 (step + 1) (w65816_init false).1 0).isSome = true) ∨
      ((r.1.IR = (c.IR + 0) % 65536 ∨ r.1.IR = (c.IR + 1) % 65536) ∧ step + 2 < 8 ∧
        (op_F8 (step + 1) (w65816_init false).1 0).isSome = true ∧ (op_F8 (step + 2) (w65816_init false).1 0).isSome = true)) := by
  unfold op_F8 at h
  split at h
  case h_3 => exact Option.noConfusion h
  all_goals cases h
  all_goals refine ⟨(by
    first
    | (dsimp only [] <;>
       repeat' (first | apply ite_bcd_of | apply ite_fst_bcd_of | rfl))
    | rfl), ?_⟩
  case h_2 => exact Or.inl (fetch_sync _ _)
  all_goals exact Or.inr (Or.inl ⟨(by
    first
    | (dsimp only [] <;>
       repeat' (first | apply ite_IR_of | apply ite_fst_IR_of | rfl))
    | rfl), by decide, Eq.refl true⟩)

theorem op_F9_isSome (step : Nat) (c : w65816_t) (pins : Nat) :
    (op_F9 step c pins).isSome = (op_F9 step (w65816_init false).1 0).isSome := by
  unfold op_F9
  split <;> first | exact Eq.refl true | exact Eq.refl false

theorem op_F9_live (step : Nat) (c : w65816_t) (pins : Nat) (r : w65816_t × Nat)
    (h : op_F9 step c pins = some r) :
    r.1.bcd_enabled = c.bcd_enabled ∧
    (sync_out r.2 = true ∨
      (r.1.IR = c.IR ∧ step + 1 < 8 ∧ (op_F9 (step + 1) (w65816_init false).1 0).isSome = true) ∨
      ((r.1.IR = (c.IR + 0) % 65536 ∨ r.1.IR = (c.IR + 1) % 65536) ∧ step + 2 < 8 ∧
        (op_F9 (step + 1) (w65816_init false).1 0).isSome = true ∧ (op_F9 (step + 2) (w65816_init false).1 0).isSome = true)) := by
  unfold op_F9 at h
  split at h
  case h_6 => exact Option.noConfusion h
  all_goals cases h
  all_goals refine ⟨(by
    first
    | (dsimp only [] <;>
       repeat' (first | apply ite_bcd_of | apply ite_fst_bcd_of | apply sbc_bcd_of | rfl))
    | rfl), ?_⟩
  case h_3 => exact Or.inr (Or.inr ⟨skip_IR _ _, by decide, Eq.refl true, Eq.refl true⟩)
  case h_5 => exact Or.inl (fetch_sync _ _)
  all_goals exact Or.inr (Or.inl ⟨(by
    first
    | (dsimp only [] <;>
       repeat' (first | apply ite_IR_of | apply ite_fst_IR_of | apply sbc_IR_of | rfl))
    | rfl), by decide, Eq.refl true⟩)

theorem op_FA_isSome (step : Nat) (c : w65816_t) (pins : Nat) :
    (op_FA step c pins).isSome = (op_FA step (w65816_init false).1 0).isSome := by
  unfold op_FA
  split <;> first | exact Eq.refl true | exact Eq.refl false

theorem op_FA_live (step : Nat) (c : w65816_t) (pins : Nat) (r : w65816_t × Nat)
    (h : op_FA step c pins = some r) :
    r.1.bcd_enabled = c.bcd_enabled ∧
    (sync_out r.2 = true ∨
      (r.1.IR = c.IR ∧ step + 1 < 8 ∧ (op_FA (step + 1) (w65816_init false).1 0).isSome = true) ∨
      ((r.1.IR = (c.IR + 0) % 65536 ∨ r.1.IR = (c.IR + 1) % 65536) ∧ step + 2 < 8 ∧
        (op_FA (step + 1) (w65816_init false).1 0).isSome = true ∧ (op_FA (step + 2) (w65816_init false).1 0).isSome = true)) := by
  unfold op_FA at h
  split at h
  case h_5 => exact Option.noConfusion h
  all_goals cases h
  all_goals refine ⟨(by
    first
    | (dsimp only [set_X, set_S, _NZ] <;>
       repeat' (first | apply ite_bcd_of | apply ite_fst_bcd_of | rfl))
    | rfl), ?_⟩
  case h_4 => exact Or.inl (fetch_sync _ _)
  all_goals exact Or.inr (Or.inl ⟨(by
    first
    | (dsimp only [set_X, set_S, _NZ] <;>
       repeat' (first | apply ite_IR_of | apply ite_fst_IR_of | rfl))
    | rfl), by decide, Eq.refl true⟩)

theorem op_FB_isSome (step : Nat) (c : w65816_t) (pins : Nat) :
    (op_FB step c pins).isSome = (op_FB step (w65816_init false).1 0).isSome := by
  unfold op_FB
  split <;> first | exact Eq.refl true | exact Eq.refl false

theorem op_FB_live (step : Nat) (c : w65816_t) (pins : Nat) (r : w65816_t × Nat)
    (h : op_FB step c pins = some r) :
    r.1.bcd_enabled = c.bcd_enabled ∧
    (sync_out r.2 = true ∨
      (r.1.IR = c.IR ∧ step + 1 < 8 ∧ (op_FB (step + 1) (w65816_init false).1 0).isSome = true) ∨
      ((r.1.IR = (c.IR + 0) % 65536 ∨ r.1.IR = (c.IR + 1) % 65536) ∧ step + 2 < 8 ∧
        (op_FB (step + 1) (w65816_init false).1 0).isSome = true ∧ (op_FB (step + 2) (w65816_init false).1 0).isSome = true)) := by
  unfold op_FB at h
  split at h
  case h_3 => exact Option.noConfusion h
  all_goals cases h
  all_goals refine ⟨(by
    first
    | (dsimp only [] <;>
       repeat' (first | apply ite_bcd_of | apply ite_fst_bcd_of | apply xce_bcd_of | rfl))
    | rfl), ?_⟩
  case h_2 => exact Or.inl (fetch_sync _ _)
  all_goals exact Or.inr (Or.inl ⟨(by
    first
    | (dsimp only [] <;>
       repeat' (first | apply ite_IR_of | apply ite_fst_IR_of | apply xce_IR_of | rfl))
    | rfl), by decide, Eq.refl true⟩)

theorem op_FC_isSome (step : Nat) (c : w65816_t) (pins : Nat) :
    (op_FC step c pins).isSome = (op_FC step (w65816_init false).1 0).isSome := by
  unfold op_FC
  split <;> first | exact Eq.refl true | exact Eq.refl false

theorem op_FC_live (step : Nat) (c : w65816_t) (pins : Nat) (r : w65816_t × Nat)
    (h : op_FC step c pins = some r) :
    r.1.bcd_enabled = c.bcd_enabled ∧
    (sync_out r.2 = true ∨
      (r.1.IR = c.IR ∧ step + 1 < 8 ∧ (op_FC (step + 1) (w65816_init false).1 0).isSome = true) ∨
      ((r.1.IR = (c.IR + 0) % 65536 ∨ r.1.IR = (c.IR + 1) % 65536) ∧ step + 2 < 8 ∧
        (op_FC (step + 1) (w65816_init false).1 0).isSome = true ∧ (op_FC (step + 2) (w65816_init false).1 0).isSome = true)) := by
  unfold op_FC at h
  split at h
  case h_9 => exact Option.noConfusion h
  all_goals cases h
  all_goals refine ⟨(by
    first
    | (dsimp only [set_S] <;>
       repeat' (first | apply ite_bcd_of | apply ite_fst_bcd_of | rfl))
    | rfl), ?_⟩
  case h_8 => exact Or.inl (fetch_sync _ _)
  all_goals exact Or.inr (Or.inl ⟨(by
    first
    | (dsimp only [set_S] <;>
       repeat' (first | apply ite_IR_of | apply ite_fst_IR_of | rfl))
    | rfl), by decide, Eq.refl true⟩)

theorem op_FD_isSome (step : Nat) (c : w65816_t) (pins : Nat) :
    (op_FD step c pins).isSome = (op_FD step (w65816_init false).1 0).isSome := by
  unfold op_FD
  split <;> first | exact Eq.refl true | exact Eq.refl false

theorem op_FD_live (step : Nat) (c : w65816_t) (pins : Nat) (r : w65816_t × Nat)
    (h : op_FD step c pins = some r) :
    r.1.bcd_enabled = c.bcd_enabled ∧
    (sync_out r.2 = true ∨
      (r.1.IR = c.IR ∧ step + 1 < 8 ∧ (op_FD (step + 1) (w65816_init false).1 0).isSome = true) ∨
      ((r.1.IR = (c.IR + 0) % 65536 ∨ r.1.IR = (c.IR + 1) % 65536) ∧ step + 2 < 8 ∧
        (op_FD (step + 1) (w65816_init false).1 0).isSome = true ∧ (op_FD (step + 2) (w65816_init false).1 0).isSome = true)) := by
  unfold op_FD at h
  split at h
  case h_6 => exact Option.noConfusion h
  all_goals cases h
  all_goals refine ⟨(by
    first
    | (dsimp only [] <;>
       repeat' (first | apply ite_bcd_of | apply ite_fst_bcd_of | apply sbc_bcd_of | rfl))
    | rfl), ?_⟩
  case h_3 => exact Or.inr (Or.inr ⟨skip_IR _ _, by decide, Eq.refl true, Eq.refl true⟩)
  case h_5 => exact Or.inl (fetch_sync _ _)
  all_goals exact Or.inr (Or.inl ⟨(by
    first
    | (dsimp only [] <;>
       repeat' (first | apply ite_IR_of | apply ite_fst_IR_of | apply sbc_IR_of | rfl))
    | rfl), by decide, Eq.refl true⟩)

theorem op_FE_isSome (step : Nat) (c : w65816_t) (pins : Nat) :
    (op_FE step c pins).isSome = (op_FE step (w65816_init false).1 0).isSome := by
  unfold op_FE
  split <;> first | exact Eq.refl true | exact Eq.refl false

theorem op_FE_live (step : Nat) (c : w65816_t) (pins : Nat) (r : w65816_t × Nat)
    (h : op_FE step c pins = some r) :
    r.1.bcd_enabled = c.bcd_enabled ∧
    (sync_out r.2 = true ∨
      (r.1.IR = c.IR ∧ step + 1 < 8 ∧ (op_FE (step + 1) (w65816_init false).1 0).isSome = true) ∨
      ((r.1.IR = (c.IR + 0) % 65536 ∨ r.1.IR = (c.IR + 1) % 65536) ∧ step + 2 < 8 ∧
        (op_FE (step + 1) (w65816_init false).1 0).isSome = true ∧ (op_FE (step + 2) (w65816_init false).1 0).isSome = true)) := by
  unfold op_FE at h
  split at h
  case h_8 => exact Option.noConfusion h
  all_goals cases h
  all_goals refine ⟨(by
    first
    | (dsimp only [_NZ] <;>
       repeat' (first | apply ite_bcd_of | apply ite_fst_bcd_of | rfl))
    | rfl), ?_⟩
  case h_7 => exact Or.inl (fetch_sync _ _)
  all_goals exact Or.inr (Or.inl ⟨(by
    first
    | (dsimp only [_NZ] <;>
       repeat' (first | apply ite_IR_of | apply ite_fst_IR_of | rfl))
    | rfl), by decide, Eq.refl true⟩)

theorem op_FF_isSome (step : Nat) (c : w65816_t) (pins : Nat) :
    (op_FF step c pins).isSome = (op_FF step (w65816_init false).1 0).isSome := by
  unfold op_FF
  split <;> first | exact Eq.refl true | exact Eq.refl false

theorem op_FF_live (step : Nat) (c : w65816_t) (pins : Nat) (r : w65816_t × Nat)
    (h : op_FF step c pins = some r) :
    r.1.bcd_enabled = c.bcd_enabled ∧
    (sync_out r.2 = true ∨
      (r.1.IR = c.IR ∧ step + 1 < 8 ∧ (op_FF (step + 1) (w65816_init false).1 0).isSome = true) ∨
      ((r.1.IR = (c.IR + 0) % 65536 ∨ r.1.IR = (c.IR + 1) % 65536) ∧ step + 2 < 8 ∧
        (op_FF (step + 1) (w65816_init false).1 0).isSome = true ∧ (op_FF (step + 2) (w65816_init false).1 0).isSome = true)) := by
  unfold op_FF at h
  split at h
  case h_4 => exact Option.noConfusion h
  all_goals cases h
  all_goals refine ⟨(by
    first
    | (dsimp only [] <;>
       repeat' (first | apply ite_bcd_of | apply ite_fst_bcd_of | apply sbc_bcd_of | rfl))
    | rfl), ?_⟩
  case h_3 => exact Or.inl (fetch_sync _ _)
  all_goals exact Or.inr (Or.inl ⟨(by
    first
    | (dsimp only [] <;>
       repeat' (first | apply ite_IR_of | apply ite_fst_IR_of | apply sbc_IR_of | rfl))
    | rfl), by decide, Eq.refl true⟩)

theorem decode_0_isSome (lo step : Nat) (c : w65816_t) (pins : Nat) :
    (decode_0 lo step c pins).isSome = (decode_0 lo step (w65816_init false).1 0).isSome := by
  unfold decode_0
  split
  · exact op_00_isSome _ _ _
  · exact op_01_isSome _ _ _
  · exact op_02_isSome _ _ _
  · exact op_03_isSome _ _ _
  · exact op_04_isSome _ _ _
  · exact op_05_isSome _ _ _
  · exact op_06_isSome _ _ _
  · exact op_07_isSome _ _ _
  · exact op_08_isSome _ _ _
  · exact op_09_isSome _ _ _
  · exact op_0A_isSome _ _ _
  · exact op_0B_isSome _ _ _
  · exact op_0C_isSome _ _ _
  · exact op_0D_isSome _ _ _
  · exact op_0E_isSome _ _ _
  · exact op_0F_isSome _ _ _
  · rfl

theorem decode_0_live (lo step : Nat) (c : w65816_t) (pins : Nat) (r : w65816_t × Nat)
    (h : decode_0 lo step c pins = some r) :
    r.1.bcd_enabled = c.bcd_enabled ∧
    (sync_out r.2 = true ∨
      (r.1.IR = c.IR ∧ step + 1 < 8 ∧ (decode_0 lo (step + 1) (w65816_init false).1 0).isSome = true) ∨
      ((r.1.IR = (c.IR + 0) % 65536 ∨ r.1.IR = (c.IR + 1) % 65536) ∧ step + 2 < 8 ∧
        (decode_0 lo (step + 1) (w65816_init false).1 0).isSome = true ∧ (decode_0 lo (step + 2) (w65816_init false).1 0).isSome = true)) := by
  unfold decode_0 at h
  split at h
  · exact op_00_live _ _ _ _ h
  · exact op_01_live _ _ _ _ h
  · exact op_02_live _ _ _ _ h
  · exact op_03_live _ _ _ _ h
  · exact op_04_live _ _ _ _ h
  · exact op_05_live _ _ _ _ h
  · exact op_06_live _ _ _ _ h
  · exact op_07_live _ _ _ _ h
  · exact op_08_live _ _ _ _ h
  · exact op_09_live _ _ _ _ h
  · exact op_0A_live _ _ _ _ h
  · exact op_0B_live _ _ _ _ h
  · exact op_0C_live _ _ _ _ h
  · exact op_0D_live _ _ _ _ h
  · exact op_0E_live _ _ _ _ h
  · exact op_0F_live _ _ _ _ h
  · exact Option.noConfusion h

theorem decode_1_isSome (lo step : Nat) (c : w65816_t) (pins : Nat) :
    (decode_1 lo step c pins).isSome = (decode_1 lo step (w65816_init false).1 0).isSome := by
  unfold decode_1
  split
  · exact op_10_isSome _ _ _
  · exact op_11_isSome _ _ _
  · exact op_12_isSome _ _ _
  · exact op_13_isSome _ _ _
  · exact op_14_isSome _ _ _
  · exact op_15_isSome _ _ _
  · exact op_16_isSome _ _ _
  · exact op_17_isSome _ _ _
  · exact op_18_isSome _ _ _
  · exact op_19_isSome _ _ _
  · exact op_1A_isSome _ _ _
  · exact op_1B_isSome _ _ _
  · exact op_1C_isSome _ _ _
  · exact op_1D_isSome _ _ _
  · exact op_1E_isSome _ _ _
  · exact op_1F_isSome _ _ _
  · rfl

theorem decode_1_live (lo step : Nat) (c : w65816_t) (pins : Nat) (r : w65816_t × Nat)
    (h : decode_1 lo step c pins = some r) :
    r.1.bcd_enabled = c.bcd_enabled ∧
    (sync_out r.2 = true ∨
      (r.1.IR = c.IR ∧ step + 1 < 8 ∧ (decode_1 lo (step + 1) (w65816_init false).1 0).isSome = true) ∨
      ((r.1.IR = (c.IR + 0) % 65536 ∨ r.1.IR = (c.IR + 1) % 65536) ∧ step + 2 < 8 ∧
        (decode_1 lo (step + 1) (w65816_init false).1 0).isSome = true ∧ (decode_1 lo (step + 2) (w65816_init false).1 0).isSome = true)) := by
  unfold decode_1 at h
  split at h
  · exact op_10_live _ _ _ _ h
  · exact op_11_live _ _ _ _ h
  · exact op_12_live _ _ _ _ h
  · exact op_13_live _ _ _ _ h
  · exact op_14_live _ _ _ _ h
  · exact op_15_live _ _ _ _ h
  · exact op_16_live _ _ _ _ h
  · exact op_17_live _ _ _ _ h
  · exact op_18_live _ _ _ _ h
  · exact op_19_live _ _ _ _ h
  · exact op_1A_live _ _ _ _ h
  · exact op_1B_live _ _ _ _ h
  · exact op_1C_live _ _ _ _ h
  · exact op_1D_live _ _ _ _ h
  · exact op_1E_live _ _ _ _ h
  · exact op_1F_live _ _ _ _ h
  · exact Option.noConfusion h

theorem decode_2_isSome (lo step : Nat) (c : w65816_t) (pins : Nat) :
    (decode_2 lo step c pins).isSome = (decode_2 lo step (w65816_init false).1 0).isSome := by
  unfold decode_2
  split
  · exact op_20_isSome _ _ _
  · exact op_21_isSome _ _ _
  · exact op_22_isSome _ _ _
  · exact op_23_isSome _ _ _
  · exact op_24_isSome _ _ _
  · exact op_25_isSome _ _ _
  · exact op_26_isSome _ _ _
  · exact op_27_isSome _ _ _
  · exact op_28_isSome _ _ _
  · exact op_29_isSome _ _ _
  · exact op_2A_isSome _ _ _
  · exact op_2B_isSome _ _ _
  · exact op_2C_isSome _ _ _
  · exact op_2D_isSome _ _ _
  · exact op_2E_isSome _ _ _
  · exact op_2F_isSome _ _ _
  · rfl

theorem decode_2_live (lo step : Nat) (c : w65816_t) (pins : Nat) (r : w65816_t × Nat)
    (h : decode_2 lo step c pins = some r) :
    r.1.bcd_enabled = c.bcd_enabled ∧
    (sync_out r.2 = true ∨
      (r.1.IR = c.IR ∧ step + 1 < 8 ∧ (decode_2 lo (step + 1) (w65816_init false).1 0).isSome = true) ∨
      ((r.1.IR = (c.IR + 0) % 65536 ∨ r.1.IR = (c.IR + 1) % 65536) ∧ step + 2 < 8 ∧
        (decode_2 lo (step + 1) (w65816_init false).1 0).isSome = true ∧ (decode_2 lo (step + 2) (w65816_init false).1 0).isSome = true)) := by
  unfold decode_2 at h
  split at h
  · exact op_20_live _ _ _ _ h
  · exact op_21_live _ _ _ _ h
  · exact op_22_live _ _ _ _ h
  · exact op_23_live _ _ _ _ h
  · exact op_24_live _ _ _ _ h
  · exact op_25_live _ _ _ _ h
  · exact op_26_live _ _ _ _ h
  · exact op_27_live _ _ _ _ h
  · exact op_28_live _ _ _ _ h
  · exact op_29_live _ _ _ _ h
  · exact op_2A_live _ _ _ _ h
  · exact op_2B_live _ _ _ _ h
  · exact op_2C_live _ _ _ _ h
  · exact op_2D_live _ _ _ _ h
  · exact op_2E_live _ _ _ _ h
  · exact op_2F_live _ _ _ _ h
  · exact Option.noConfusion h

theorem decode_3_isSome (lo step : Nat) (c : w65816_t) (pins : Nat) :
    (decode_3 lo step c pins).isSome = (decode_3 lo step (w65816_init false).1 0).isSome := by
  unfold decode_3
  split
  · exact op_30_isSome _ _ _
  · exact op_31_isSome _ _ _
  · exact op_32_isSome _ _ _
  · exact op_33_isSome _ _ _
  · exact op_34_isSome _ _ _
  · exact op_35_isSome _ _ _
  · exact op_36_isSome _ _ _
  · exact op_37_isSome _ _ _
  · exact op_38_isSome _ _ _
  · exact op_39_isSome _ _ _
  · exact op_3A_isSome _ _ _
  · exact op_3B_isSome _ _ _
  · exact op_3C_isSome _ _ _
  · exact op_3D_isSome _ _ _
  · exact op_3E_isSome _ _ _
  · exact op_3F_isSome _ _ _
  · rfl

theorem decode_3_live (lo step : Nat) (c : w65816_t) (pins : Nat) (r : w65816_t × Nat)
    (h : decode_3 lo step c pins = some r) :
    r.1.bcd_enabled = c.bcd_enabled ∧
    (sync_out r.2 = true ∨
      (r.1.IR = c.IR ∧ step + 1 < 8 ∧ (decode_3 lo (step + 1) (w65816_init false).1 0).isSome = true) ∨
      ((r.1.IR = (c.IR + 0) % 65536 ∨ r.1.IR = (c.IR + 1) % 65536) ∧ step + 2 < 8 ∧
        (decode_3 lo (step + 1) (w65816_init false).1 0).isSome = true ∧ (decode_3 lo (step + 2) (w65816_init false).1 0).isSome = true)) := by
  unfold decode_3 at h
  split at h
  · exact op_30_live _ _ _ _ h
  · exact op_31_live _ _ _ _ h
  · exact op_32_live _ _ _ _ h
  · exact op_33_live _ _ _ _ h
  · exact op_34_live _ _ _ _ h
  · exact op_35_live _ _ _ _ h
  · exact op_36_live _ _ _ _ h
  · exact op_37_live _ _ _ _ h
  · exact op_38_live _ _ _ _ h
  · exact op_39_live _ _ _ _ h
  · exact op_3A_live _ _ _ _ h
  · exact op_3B_live _ _ _ _ h
  · exact op_3C_live _ _ _ _ h
  · exact op_3D_live _ _ _ _ h
  · exact op_3E_live _ _ _ _ h
  · exact op_3F_live _ _ _ _ h
  · exact Option.noConfusion h

theorem decode_4_isSome (lo step : Nat) (c : w65816_t) (pins : Nat) :
    (decode_4 lo step c pins).isSome = (decode_4 lo step (w65816_init false).1 0).isSome := by
  unfold decode_4
  split
  · exact op_40_isSome _ _ _
  · exact op_41_isSome _ _ _
  · exact op_42_isSome _ _ _
  · exact op_43_isSome _ _ _
  · exact op_44_isSome _ _ _
  · exact op_45_isSome _ _ _
  · exact op_46_isSome _ _ _
  · exact op_47_isSome _ _ _
  · exact op_48_isSome _ _ _
  · exact op_49_isSome _ _ _
  · exact op_4A_isSome _ _ _
  · exact op_4B_isSome _ _ _
  · exact op_4C_isSome _ _ _
  · exact op_4D_isSome _ _ _
  · exact op_4E_isSome _ _ _
  · exact op_4F_isSome _ _ _
  · rfl

theorem decode_4_live (lo step : Nat) (c : w65816_t) (pins : Nat) (r : w65816_t × Nat)
    (h : decode_4 lo step c pins = some r) :
    r.1.bcd_enabled = c.bcd_enabled ∧
    (sync_out r.2 = true ∨
      (r.1.IR = c.IR ∧ step + 1 < 8 ∧ (decode_4 lo (step + 1) (w65816_init false).1 0).isSome = true) ∨
      ((r.1.IR = (c.IR + 0) % 65536 ∨ r.1.IR = (c.IR + 1) % 65536) ∧ step + 2 < 8 ∧
        (decode_4 lo (step + 1) (w65816_init false).1 0).isSome = true ∧ (decode_4 lo (step + 2) (w65816_init false).1 0).isSome = true)) := by
  unfold decode_4 at h
  split at h
  · exact op_40_live _ _ _ _ h
  · exact op_41_live _ _ _ _ h
  · exact op_42_live _ _ _ _ h
  · exact op_43_live _ _ _ _ h
  · exact op_44_live _ _ _ _ h
  · exact op_45_live _ _ _ _ h
  · exact op_46_live _ _ _ _ h
  · exact op_47_live _ _ _ _ h
  · exact op_48_live _ _ _ _ h
  · exact op_49_live _ _ _ _ h
  · exact op_4A_live _ _ _ _ h
  · exact op_4B_live _ _ _ _ h
  · exact op_4C_live _ _ _ _ h
  · exact op_4D_live _ _ _ _ h
  · exact op_4E_live _ _ _ _ h
  · exact op_4F_live _ _ _ _ h
  · exact Option.noConfusion h

theorem decode_5_isSome (lo step : Nat) (c : w65816_t) (pins : Nat) :
    (decode_5 lo step c pins).isSome = (decode_5 lo step (w65816_init false).1 0).isSome := by
  unfold decode_5
  split
  · exact op_50_isSome _ _ _
  · exact op_51_isSome _ _ _
  · exact op_52_isSome _ _ _
  · exact op_53_isSome _ _ _
  · exact op_54_isSome _ _ _
  · exact op_55_isSome _ _ _
  · exact op_56_isSome _ _ _
  · exact op_57_isSome _ _ _
  · exact op_58_isSome _ _ _
  · exact op_59_isSome _ _ _
  · exact op_5A_isSome _ _ _
  · exact op_5B_isSome _ _ _
  · exact op_5C_isSome _ _ _
  · exact op_5D_isSome _ _ _
  · exact op_5E_isSome _ _ _
  · exact op_5F_isSome _ _ _
  · rfl

theorem decode_5_live (lo step : Nat) (c : w65816_t) (pins : Nat) (r : w65816_t × Nat)
    (h : decode_5 lo step c pins = some r) :
    r.1.bcd_enabled = c.bcd_enabled ∧
    (sync_out r.2 = true ∨
      (r.1.IR = c.IR ∧ step + 1 < 8 ∧ (decode_5 lo (step + 1) (w65816_init false).1 0).isSome = true) ∨
      ((r.1.IR = (c.IR + 0) % 65536 ∨ r.1.IR = (c.IR + 1) % 65536) ∧ step + 2 < 8 ∧
        (decode_5 lo (step + 1) (w65816_init false).1 0).isSome = true ∧ (decode_5 lo (step + 2) (w65816_init false).1 0).isSome = true)) := by
  unfold decode_5 at h
  split at h
  · exact op_50_live _ _ _ _ h
  · exact op_51_live _ _ _ _ h
  · exact op_52_live _ _ _ _ h
  · exact op_53_live _ _ _ _ h
  · exact op_54_live _ _ _ _ h
  · exact op_55_live _ _ _ _ h
  · exact op_56_live _ _ _ _ h
  · exact op_57_live _ _ _ _ h
  · exact op_58_live _ _ _ _ h
  · exact op_59_live _ _ _ _ h
  · exact op_5A_live _ _ _ _ h
  · exact op_5B_live _ _ _ _ h
  · exact op_5C_live _ _ _ _ h
  · exact op_5D_live _ _ _ _ h
  · exact op_5E_live _ _ _ _ h
  · exact op_5F_live _ _ _ _ h
  · exact Option.noConfusion h

theorem decode_6_isSome (lo step : Nat) (c : w65816_t) (pins : Nat) :
    (decode_6 lo step c pins).isSome = (decode_6 lo step (w65816_init false).1 0).isSome := by
  unfold decode_6
  split
  · exact op_60_isSome _ _ _
  · exact op_61_isSome _ _ _
  · exact op_62_isSome _ _ _
  · exact op_63_isSome _ _ _
  · exact op_64_isSome _ _ _
  · exact op_65_isSome _ _ _
  · exact op_66_isSome _ _ _
  · exact op_67_isSome _ _ _
  · exact op_68_isSome _ _ _
  · exact op_69_isSome _ _ _
  · exact op_6A_isSome _ _ _
  · exact op_6B_isSome _ _ _
  · exact op_6C_isSome _ _ _
  · exact op_6D_isSome _ _ _
  · exact op_6E_isSome _ _ _
  · exact op_6F_isSome _ _ _
  · rfl

theorem decode_6_live (lo step : Nat) (c : w65816_t) (pins : Nat) (r : w65816_t × Nat)
    (h : decode_6 lo step c pins = some r) :
    r.1.bcd_enabled = c.bcd_enabled ∧
    (sync_out r.2 = true ∨
      (r.1.IR = c.IR ∧ step + 1 < 8 ∧ (decode_6 lo (step + 1) (w65816_init false).1 0).isSome = true) ∨
      ((r.1.IR = (c.IR + 0) % 65536 ∨ r.1.IR = (c.IR + 1) % 65536) ∧ step + 2 < 8 ∧
        (decode_6 lo (step + 1) (w65816_init false).1 0).isSome = true ∧ (decode_6 lo (step + 2) (w65816_init false).1 0).isSome = true)) := by
  unfold decode_6 at h
  split at h
  · exact op_60_live _ _ _ _ h
  · exact op_61_live _ _ _ _ h
  · exact op_62_live _ _ _ _ h
  · exact op_63_live _ _ _ _ h
  · exact op_64_live _ _ _ _ h
  · exact op_65_live _ _ _ _ h
  · exact op_66_live _ _ _ _ h
  · exact op_67_live _ _ _ _ h
  · exact op_68_live _ _ _ _ h
  · exact op_69_live _ _ _ _ h
  · exact op_6A_live _ _ _ _ h
  · exact op_6B_live _ _ _ _ h
  · exact op_6C_live _ _ _ _ h
  · exact op_6D_live _ _ _ _ h
  · exact op_6E_live _ _ _ _ h
  · exact op_6F_live _ _ _ _ h
  · exact Option.noConfusion h

theorem decode_7_isSome (lo step : Nat) (c : w65816_t) (pins : Nat) :
    (decode_7 lo step c pins).isSome = (decode_7 lo step (w65816_init false).1 0).isSome := by
  unfold decode_7
  split
  · exact op_70_isSome _ _ _
  · exact op_71_isSome _ _ _
  · exact op_72_isSome _ _ _
  · exact op_73_isSome _ _ _
  · exact op_74_isSome _ _ _
  · exact op_75_isSome _ _ _
  · exact op_76_isSome _ _ _
  · exact op_77_isSome _ _ _
  · exact op_78_isSome _ _ _
  · exact op_79_isSome _ _ _
  · exact op_7A_isSome _ _ _
  · exact op_7B_isSome _ _ _
  · exact op_7C_isSome _ _ _
  · exact op_7D_isSome _ _ _
  · exact op_7E_isSome _ _ _
  · exact op_7F_isSome _ _ _
  · rfl

theorem decode_7_live (lo step : Nat) (c : w65816_t) (pins : Nat) (r : w65816_t × Nat)
    (h : decode_7 lo step c pins = some r) :
    r.1.bcd_enabled = c.bcd_enabled ∧
    (sync_out r.2 = true ∨
      (r.1.IR = c.IR ∧ step + 1 < 8 ∧ (decode_7 lo (step + 1) (w65816_init false).1 0).isSome = true) ∨
      ((r.1.IR = (c.IR + 0) % 65536 ∨ r.1.IR = (c.IR + 1) % 65536) ∧ step + 2 < 8 ∧
        (decode_7 lo (step + 1) (w65816_init false).1 0).isSome = true ∧ (decode_7 lo (step + 2) (w65816_init false).1 0).isSome = true)) := by
  unfold decode_7 at h
  split at h
  · exact op_70_live _ _ _ _ h
  · exact op_71_live _ _ _ _ h
  · exact op_72_live _ _ _ _ h
  · exact op_73_live _ _ _ _ h
  · exact op_74_live _ _ _ _ h
  · exact op_75_live _ _ _ _ h
  · exact op_76_live _ _ _ _ h
  · exact op_77_live _ _ _ _ h
  · exact op_78_live _ _ _ _ h
  · exact op_79_live _ _ _ _ h
  · exact op_7A_live _ _ _ _ h
  · exact op_7B_live _ _ _ _ h
  · exact op_7C_live _ _ _ _ h
  · exact op_7D_live _ _ _ _ h
  · exact op_7E_live _ _ _ _ h
  · exact op_7F_live _ _ _ _ h
  · exact Option.noConfusion h

theorem decode_8_isSome (lo step : Nat) (c : w65816_t) (pins : Nat) :
    (decode_8 lo step c pins).isSome = (decode_8 lo step (w65816_init false).1 0).isSome := by
  unfold decode_8
  split
  · exact op_80_isSome _ _ _
  · exact op_81_isSome _ _ _
  · exact op_82_isSome _ _ _
  · exact op_83_isSome _ _ _
  · exact op_84_isSome _ _ _
  · exact op_85_isSome _ _ _
  · exact op_86_isSome _ _ _
  · exact op_87_isSome _ _ _
  · exact op_88_isSome _ _ _
  · exact op_89_isSome _ _ _
  · exact op_8A_isSome _ _ _
  · exact op_8B_isSome _ _ _
  · exact op_8C_isSome _ _ _
  · exact op_8D_isSome _ _ _
  · exact op_8E_isSome _ _ _
  · exact op_8F_isSome _ _ _
  · rfl

theorem decode_8_live (lo step : Nat) (c : w65816_t) (pins : Nat) (r : w65816_t × Nat)
    (h : decode_8 lo step c pins = some r) :
    r.1.bcd_enabled = c.bcd_enabled ∧
    (sync_out r.2 = true ∨
      (r.1.IR = c.IR ∧ step + 1 < 8 ∧ (decode_8 lo (step + 1) (w65816_init false).1 0).isSome = true) ∨
      ((r.1.IR = (c.IR + 0) % 65536 ∨ r.1.IR = (c.IR + 1) % 65536) ∧ step + 2 < 8 ∧
        (decode_8 lo (step + 1) (w65816_init false).1 0).isSome = true ∧ (decode_8 lo (step + 2) (w65816_init false).1 0).isSome = true)) := by
  unfold decode_8 at h
  split at h
  · exact op_80_live _ _ _ _ h
  · exact op_81_live _ _ _ _ h
  · exact op_82_live _ _ _ _ h
  · exact op_83_live _ _ _ _ h
  · exact op_84_live _ _ _ _ h
  · exact op_85_live _ _ _ _ h
  · exact op_86_live _ _ _ _ h
  · exact op_87_live _ _ _ _ h
  · exact op_88_live _ _ _ _ h
  · exact op_89_live _ _ _ _ h
  · exact op_8A_live _ _ _ _ h
  · exact op_8B_live _ _ _ _ h
  · exact op_8C_live _ _ _ _ h
  · exact op_8D_live _ _ _ _ h
  · exact op_8E_live _ _ _ _ h
  · exact op_8F_live _ _ _ _ h
  · exact Option.noConfusion h

theorem decode_9_isSome (lo step : Nat) (c : w65816_t) (pins : Nat) :
    (decode_9 lo step c pins).isSome = (decode_9 lo step (w65816_init false).1 0).isSome := by
  unfold decode_9
  split
  · exact op_90_isSome _ _ _
  · exact op_91_isSome _ _ _
  · exact op_92_isSome _ _ _
  · exact op_93_isSome _ _ _
  · exact op_94_isSome _ _ _
  · exact op_95_isSome _ _ _
  · exact op_96_isSome _ _ _
  · exact op_97_isSome _ _ _
  · exact op_98_isSome _ _ _
  · exact op_99_isSome _ _ _
  · exact op_9A_isSome _ _ _
  · exact op_9B_isSome _ _ _
  · exact op_9C_isSome _ _ _
  · exact op_9D_isSome _ _ _
  · exact op_9E_isSome _ _ _
  · exact op_9F_isSome _ _ _
  · rfl

theorem decode_9_live (lo step : Nat) (c : w65816_t) (pins : Nat) (r : w65816_t × Nat)
    (h : decode_9 lo step c pins = some r) :
    r.1.bcd_enabled = c.bcd_enabled ∧
    (sync_out r.2 = true ∨
      (r.1.IR = c.IR ∧ step + 1 < 8 ∧ (decode_9 lo (step + 1) (w65816_init false).1 0).isSome = true) ∨
      ((r.1.IR = (c.IR + 0) % 65536 ∨ r.1.IR = (c.IR + 1) % 65536) ∧ step + 2 < 8 ∧
        (decode_9 lo (step + 1) (w65816_init false).1 0).isSome = true ∧ (decode_9 lo (step + 2) (w65816_init false).1 0).isSome = true)) := by
  unfold decode_9 at h
  split at h
  · exact op_90_live _ _ _ _ h
  · exact op_91_live _ _ _ _ h
  · exact op_92_live _ _ _ _ h
  · exact op_93_live _ _ _ _ h
  · exact op_94_live _ _ _ _ h
  · exact op_95_live _ _ _ _ h
  · exact op_96_live _ _ _ _ h
  · exact op_97_live _ _ _ _ h
  · exact op_98_live _ _ _ _ h
  · exact op_99_live _ _ _ _ h
  · exact op_9A_live _ _ _ _ h
  · exact op_9B_live _ _ _ _ h
  · exact op_9C_live _ _ _ _ h
  · exact op_9D_live _ _ _ _ h
  · exact op_9E_live _ _ _ _ h
  · exact op_9F_live _ _ _ _ h
  · exact Option.noConfusion h

theorem decode_A_isSome (lo step : Nat) (c : w65816_t) (pins : Nat) :
    (decode_A lo step c pins).isSome = (decode_A lo step (w65816_init false).1 0).isSome := by
  unfold decode_A
  split
  · exact op_A0_isSome _ _ _
  · exact op_A1_isSome _ _ _
  · exact op_A2_isSome _ _ _
  · exact op_A3_isSome _ _ _
  · exact op_A4_isSome _ _ _
  · exact op_A5_isSome _ _ _
  · exact op_A6_isSome _ _ _
  · exact op_A7_isSome _ _ _
  · exact op_A8_isSome _ _ _
  · exact op_A9_isSome _ _ _
  · exact op_AA_isSome _ _ _
  · exact op_AB_isSome _ _ _
  · exact op_AC_isSome _ _ _
  · exact op_AD_isSome _ _ _
  · exact op_AE_isSome _ _ _
  · exact op_AF_isSome _ _ _
  · rfl

theorem decode_A_live (lo step : Nat) (c : w65816_t) (pins : Nat) (r : w65816_t × Nat)
    (h : decode_A lo step c pins = some r) :
    r.1.bcd_enabled = c.bcd_enabled ∧
    (sync_out r.2 = true ∨
      (r.1.IR = c.IR ∧ step + 1 < 8 ∧ (decode_A lo (step + 1) (w65816_init false).1 0).isSome = true) ∨
      ((r.1.IR = (c.IR + 0) % 65536 ∨ r.1.IR = (c.IR + 1) % 65536) ∧ step + 2 < 8 ∧
        (decode_A lo (step + 1) (w65816_init false).1 0).isSome = true ∧ (decode_A lo (step + 2) (w65816_init false).1 0).isSome = true)) := by
  unfold decode_A at h
  split at h
  · exact op_A0_live _ _ _ _ h
  · exact op_A1_live _ _ _ _ h
  · exact op_A2_live _ _ _ _ h
  · exact op_A3_live _ _ _ _ h
  · exact op_A4_live _ _ _ _ h
  · exact op_A5_live _ _ _ _ h
  · exact op_A6_live _ _ _ _ h
  · exact op_A7_live _ _ _ _ h
  · exact op_A8_live _ _ _ _ h
  · exact op_A9_live _ _ _ _ h
  · exact op_AA_live _ _ _ _ h
  · exact op_AB_live _ _ _ _ h
  · exact op_AC_live _ _ _ _ h
  · exact op_AD_live _ _ _ _ h
  · exact op_AE_live _ _ _ _ h
  · exact op_AF_live _ _ _ _ h
  · exact Option.noConfusion h

theorem decode_B_isSome (lo step : Nat) (c : w65816_t) (pins : Nat) :
    (decode_B lo step c pins).isSome = (decode_B lo step (w65816_init false).1 0).isSome := by
  unfold decode_B
  split
  · exact op_B0_isSome _ _ _
  · exact op_B1_isSome _ _ _
  · exact op_B2_isSome _ _ _
  · exact op_B3_isSome _ _ _
  · exact op_B4_isSome _ _ _
  · exact op_B5_isSome _ _ _
  · exact op_B6_isSome _ _ _
  · exact op_B7_isSome _ _ _
  · exact op_B8_isSome _ _ _
  · exact op_B9_isSome _ _ _
  · exact op_BA_isSome _ _ _
  · exact op_BB_isSome _ _ _
  · exact op_BC_isSome _ _ _
  · exact op_BD_isSome _ _ _
  · exact op_BE_isSome _ _ _
  · exact op_BF_isSome _ _ _
  · rfl

theorem decode_B_live (lo step : Nat) (c : w65816_t) (pins : Nat) (r : w65816_t × Nat)
    (h : decode_B lo step c pins = some r) :
    r.1.bcd_enabled = c.bcd_enabled ∧
    (sync_out r.2 = true ∨
      (r.1.IR = c.IR ∧ step + 1 < 8 ∧ (decode_B lo (step + 1) (w65816_init false).1 0).isSome = true) ∨
      ((r.1.IR = (c.IR + 0) % 65536 ∨ r.1.IR = (c.IR + 1) % 65536) ∧ step + 2 < 8 ∧
        (decode_B lo (step + 1) (w65816_init false).1 0).isSome = true ∧ (decode_B lo (step + 2) (w65816_init false).1 0).isSome = true)) := by
  unfold decode_B at h
  split at h
  · exact op_B0_live _ _ _ _ h
  · exact op_B1_live _ _ _ _ h
  · exact op_B2_live _ _ _ _ h
  · exact op_B3_live _ _ _ _ h
  · exact op_B4_live _ _ _ _ h
  · exact op_B5_live _ _ _ _ h
  · exact op_B6_live _ _ _ _ h
  · exact op_B7_live _ _ _ _ h
  · exact op_B8_live _ _ _ _ h
  · exact op_B9_live _ _ _ _ h
  · exact op_BA_live _ _ _ _ h
  · exact op_BB_live _ _ _ _ h
  · exact op_BC_live _ _ _ _ h
  · exact op_BD_live _ _ _ _ h
  · exact op_BE_live _ _ _ _ h
  · exact op_BF_live _ _ _ _ h
  · exact Option.noConfusion h

theorem decode_C_isSome (lo step : Nat) (c : w65816_t) (pins : Nat) :
    (decode_C lo step c pins).isSome = (decode_C lo step (w65816_init false).1 0).isSome := by
  unfold decode_C
  split
  · exact op_C0_isSome _ _ _
  · exact op_C1_isSome _ _ _
  · exact op_C2_isSome _ _ _
  · exact op_C3_isSome _ _ _
  · exact op_C4_isSome _ _ _
  · exact op_C5_isSome _ _ _
  · exact op_C6_isSome _ _ _
  · exact op_C7_isSome _ _ _
  · exact op_C8_isSome _ _ _
  · exact op_C9_isSome _ _ _
  · exact op_CA_isSome _ _ _
  · exact op_CB_isSome _ _ _
  · exact op_CC_isSome _ _ _
  · exact op_CD_isSome _ _ _
  · exact op_CE_isSome _ _ _
  · exact op_CF_isSome _ _ _
  · rfl

theorem decode_C_live (lo step : Nat) (c : w65816_t) (pins : Nat) (r : w65816_t × Nat)
    (h : decode_C lo step c pins = some r) :
    r.1.bcd_enabled = c.bcd_enabled ∧
    (sync_out r.2 = true ∨
      (r.1.IR = c.IR ∧ step + 1 < 8 ∧ (decode_C lo (step + 1) (w65816_init false).1 0).isSome = true) ∨
      ((r.1.IR = (c.IR + 0) % 65536 ∨ r.1.IR = (c.IR + 1) % 65536) ∧ step + 2 < 8 ∧
        (decode_C lo (step + 1) (w65816_init false).1 0).isSome = true ∧ (decode_C lo (step + 2) (w65816_init false).1 0).isSome = true)) := by
  unfold decode_C at h
  split at h
  · exact op_C0_live _ _ _ _ h
  · exact op_C1_live _ _ _ _ h
  · exact op_C2_live _ _ _ _ h
  · exact op_C3_live _ _ _ _ h
  · exact op_C4_live _ _ _ _ h
  · exact op_C5_live _ _ _ _ h
  · exact op_C6_live _ _ _ _ h
  · exact op_C7_live _ _ _ _ h
  · exact op_C8_live _ _ _ _ h
  · exact op_C9_live _ _ _ _ h
  · exact op_CA_live _ _ _ _ h
  · exact op_CB_live _ _ _ _ h
  · exact op_CC_live _ _ _ _ h
  · exact op_CD_live _ _ _ _ h
  · exact op_CE_live _ _ _ _ h
  · exact op_CF_live _ _ _ _ h
  · exact Option.noConfusion h

theorem decode_D_isSome (lo step : Nat) (c : w65816_t) (pins : Nat) :
    (decode_D lo step c pins).isSome = (decode_D lo step (w65816_init false).1 0).isSome := by
  unfold decode_D
  split
  · exact op_D0_isSome _ _ _
  · exact op_D1_isSome _ _ _
  · exact op_D2_isSome _ _ _
  · exact op_D3_isSome _ _ _
  · exact op_D4_isSome _ _ _
  · exact op_D5_isSome _ _ _
  · exact op_D6_isSome _ _ _
  · exact op_D7_isSome _ _ _
  · exact op_D8_isSome _ _ _
  · exact op_D9_isSome _ _ _
  · exact op_DA_isSome _ _ _
  · exact op_DB_isSome _ _ _
  · exact op_DC_isSome _ _ _
  · exact op_DD_isSome _ _ _
  · exact op_DE_isSome _ _ _
  · exact op_DF_isSome _ _ _
  · rfl

theorem decode_D_live (lo step : Nat) (c : w65816_t) (pins : Nat) (r : w65816_t × Nat)
    (h : decode_D lo step c pins = some r) :
    r.1.bcd_enabled = c.bcd_enabled ∧
    (sync_out r.2 = true ∨
      (r.1.IR = c.IR ∧ step + 1 < 8 ∧ (decode_D lo (step + 1) (w65816_init false).1 0).isSome = true) ∨
      ((r.1.IR = (c.IR + 0) % 65536 ∨ r.1.IR = (c.IR + 1) % 65536) ∧ step + 2 < 8 ∧
        (decode_D lo (step + 1) (w65816_init false).1 0).isSome = true ∧ (decode_D lo (step + 2) (w65816_init false).1 0).isSome = true)) := by
  unfold decode_D at h
  split at h
  · exact op_D0_live _ _ _ _ h
  · exact op_D1_live _ _ _ _ h
  · exact op_D2_live _ _ _ _ h
  · exact op_D3_live _ _ _ _ h
  · exact op_D4_live _ _ _ _ h
  · exact op_D5_live _ _ _ _ h
  · exact op_D6_live _ _ _ _ h
  · exact op_D7_live _ _ _ _ h
  · exact op_D8_live _ _ _ _ h
  · exact op_D9_live _ _ _ _ h
  · exact op_DA_live _ _ _ _ h
  · exact op_DB_live _ _ _ _ h
  · exact op_DC_live _ _ _ _ h
  · exact op_DD_live _ _ _ _ h
  · exact op_DE_live _ _ _ _ h
  · exact op_DF_live _ _ _ _ h
  · exact Option.noConfusion h

theorem decode_E_isSome (lo step : Nat) (c : w65816_t) (pins : Nat) :
    (decode_E lo step c pins).isSome = (decode_E lo step (w65816_init false).1 0).isSome := by
  unfold decode_E
  split
  · exact op_E0_isSome _ _ _
  · exact op_E1_isSome _ _ _
  · exact op_E2_isSome _ _ _
  · exact op_E3_isSome _ _ _
  · exact op_E4_isSome _ _ _
  · exact op_E5_isSome _ _ _
  · exact op_E6_isSome _ _ _
  · exact op_E7_isSome _ _ _
  · exact op_E8_isSome _ _ _
  · exact op_E9_isSome _ _ _
  · exact op_EA_isSome _ _ _
  · exact op_EB_isSome _ _ _
  · exact op_EC_isSome _ _ _
  · exact op_ED_isSome _ _ _
  · exact op_EE_isSome _ _ _
  · exact op_EF_isSome _ _ _
  · rfl

theorem decode_E_live (lo step : Nat) (c : w65816_t) (pins : Nat) (r : w65816_t × Nat)
    (h : decode_E lo step c pins = some r) :
    r.1.bcd_enabled = c.bcd_enabled ∧
    (sync_out r.2 = true ∨
      (r.1.IR = c.IR ∧ step + 1 < 8 ∧ (decode_E lo (step + 1) (w65816_init false).1 0).isSome = true) ∨
      ((r.1.IR = (c.IR + 0) % 65536 ∨ r.1.IR = (c.IR + 1) % 65536) ∧ step + 2 < 8 ∧
        (decode_E lo (step + 1) (w65816_init false).1 0).isSome = true ∧ (decode_E lo (step + 2) (w65816_init false).1 0).isSome = true)) := by
  unfold decode_E at h
  split at h
  · exact op_E0_live _ _ _ _ h
  · exact op_E1_live _ _ _ _ h
  · exact op_E2_live _ _ _ _ h
  · exact op_E3_live _ _ _ _ h
  · exact op_E4_live _ _ _ _ h
  · exact op_E5_live _ _ _ _ h
  · exact op_E6_live _ _ _ _ h
  · exact op_E7_live _ _ _ _ h
  · exact op_E8_live _ _ _ _ h
  · exact op_E9_live _ _ _ _ h
  · exact op_EA_live _ _ _ _ h
  · exact op_EB_live _ _ _ _ h
  · exact op_EC_live _ _ _ _ h
  · exact op_ED_live _ _ _ _ h
  · exact op_EE_live _ _ _ _ h
  · exact op_EF_live _ _ _ _ h
  · exact Option.noConfusion h

theorem decode_F_isSome (lo step : Nat) (c : w65816_t) (pins : Nat) :
    (decode_F lo step c pins).isSome = (decode_F lo step (w65816_init false).1 0).isSome := by
  unfold decode_F
  split
  · exact op_F0_isSome _ _ _
  · exact op_F1_isSome _ _ _
  · exact op_F2_isSome _ _ _
  · exact op_F3_isSome _ _ _
  · exact op_F4_isSome _ _ _
  · exact op_F5_isSome _ _ _
  · exact op_F6_isSome _ _ _
  · exact op_F7_isSome _ _ _
  · exact op_F8_isSome _ _ _
  · exact op_F9_isSome _ _ _
  · exact op_FA_isSome _ _ _
  · exact op_FB_isSome _ _ _
  · exact op_FC_isSome _ _ _
  · exact op_FD_isSome _ _ _
  · exact op_FE_isSome _ _ _
  · exact op_FF_isSome _ _ _
  · rfl

theorem decode_F_live (lo step : Nat) (c : w65816_t) (pins : Nat) (r : w65816_t × Nat)
    (h : decode_F lo step c pins = some r) :
    r.1.bcd_enabled = c.bcd_enabled ∧
    (sync_out r.2 = true ∨
      (r.1.IR = c.IR ∧ step + 1 < 8 ∧ (decode_F lo (step + 1) (w65816_init false).1 0).isSome = true) ∨
      ((r.1.IR = (c.IR + 0) % 65536 ∨ r.1.IR = (c.IR + 1) % 65536) ∧ step + 2 < 8 ∧
        (decode_F lo (step + 1) (w65816_init false).1 0).isSome = true ∧ (decode_F lo (step + 2) (w65816_init false).1 0).isSome = true)) := by
  unfold decode_F at h
  split at h
  · exact op_F0_live _ _ _ _ h
  · exact op_F1_live _ _ _ _ h
  · exact op_F2_live _ _ _ _ h
  · exact op_F3_live _ _ _ _ h
  · exact op_F4_live _ _ _ _ h
  · exact op_F5_live _ _ _ _ h
  · exact op_F6_live _ _ _ _ h
  · exact op_F7_live _ _ _ _ h
  · exact op_F8_live _ _ _ _ h
  · exact op_F9_live _ _ _ _ h
  · exact op_FA_live _ _ _ _ h
  · exact op_FB_live _ _ _ _ h
  · exact op_FC_live _ _ _ _ h
  · exact op_FD_live _ _ _ _ h
  · exact op_FE_live _ _ _ _ h
  · exact op_FF_live _ _ _ _ h
  · exact Option.noConfusion h

/-- Whether a decoder case asserts does not depend on the state and the pins. -/
theorem decode_isSome (ir : Nat) (c : w65816_t) (pins : Nat) :
    (w65816_decode ir c pins).isSome = implemented ir := by
  unfold implemented w65816_decode
  split
  · exact decode_0_isSome _ _ _ _
  · exact decode_1_isSome _ _ _ _
  · exact decode_2_isSome _ _ _ _
  · exact decode_3_isSome _ _ _ _
  · exact decode_4_isSome _ _ _ _
  · exact decode_5_isSome _ _ _ _
  · exact decode_6_isSome _ _ _ _
  · exact decode_7_isSome _ _ _ _
  · exact decode_8_isSome _ _ _ _
  · exact decode_9_isSome _ _ _ _
  · exact decode_A_isSome _ _ _ _
  · exact decode_B_isSome _ _ _ _
  · exact decode_C_isSome _ _ _ _
  · exact decode_D_isSome _ _ _ _
  · exact decode_E_isSome _ _ _ _
  · exact decode_F_isSome _ _ _ _
  · rfl

theorem next_case (ir K j : Nat) (hK : ir / 128 = K) (hj : ir % 8 + j < 8) :
    (ir + j) / 128 = K ∧ (ir + j) / 8 % 16 = ir / 8 % 16 ∧ (ir + j) % 8 = ir % 8 + j := by
  omega

theorem implemented_0 (ir j : Nat) (hK : ir / 128 = 0x0) (hj : ir % 8 + j < 8) :
    implemented (ir + j) = (decode_0 (ir / 8 % 16) (ir % 8 + j) (w65816_init false).1 0).isSome := by
  obtain ⟨h1, h2, h3⟩ := next_case ir 0x0 j hK hj
  unfold implemented w65816_decode
  rw [h1, h2, h3]

theorem implemented_1 (ir j : Nat) (hK : ir / 128 = 0x1) (hj : ir % 8 + j < 8) :
    implemented (ir + j) = (decode_1 (ir / 8 % 16) (ir % 8 + j) (w65816_init false).1 0).isSome := by
  obtain ⟨h1, h2, h3⟩ := next_case ir 0x1 j hK hj
  unfold implemented w65816_decode
  rw [h1, h2, h3]

theorem implemented_2 (ir j : Nat) (hK : ir / 128 = 0x2) (hj : ir % 8 + j < 8) :
    implemented (ir + j) = (decode_2 (ir / 8 % 16) (ir % 8 + j) (w65816_init false).1 0).isSome := by
  obtain ⟨h1, h2, h3⟩ := next_case ir 0x2 j hK hj
  unfold implemented w65816_decode
  rw [h1, h2, h3]

theorem implemented_3 (ir j : Nat) (hK : ir / 128 = 0x3) (hj : ir % 8 + j < 8) :
    implemented (ir + j) = (decode_3 (ir / 8 % 16) (ir % 8 + j) (w65816_init false).1 0).isSome := by
  obtain ⟨h1, h2, h3⟩ := next_case ir 0x3 j hK hj
  unfold implemented w65816_decode
  rw [h1, h2, h3]

theorem implemented_4 (ir j : Nat) (hK : ir / 128 = 0x4) (hj : ir % 8 + j < 8) :
    implemented (ir + j) = (decode_4 (ir / 8 % 16) (ir % 8 + j) (w65816_init false).1 0).isSome := by
  obtain ⟨h1, h2, h3⟩ := next_case ir 0x4 j hK hj
  unfold implemented w65816_decode
  rw [h1, h2, h3]

theorem implemented_5 (ir j : Nat) (hK : ir / 128 = 0x5) (hj : ir % 8 + j < 8) :
    implemented (ir + j) = (decode_5 (ir / 8 % 16) (ir % 8 + j) (w65816_init false).1 0).isSome := by
  obtain ⟨h1, h2, h3⟩ := next_case ir 0x5 j hK hj
  unfold implemented w65816_decode
  rw [h1, h2, h3]

theorem implemented_6 (ir j : Nat) (hK : ir / 128 = 0x6) (hj : ir % 8 + j < 8) :
    implemented (ir + j) = (decode_6 (ir / 8 % 16) (ir % 8 + j) (w65816_init false).1 0).isSome := by
  obtain ⟨h1, h2, h3⟩ := next_case ir 0x6 j hK hj
  unfold implemented w65816_decode
  rw [h1, h2, h3]

theorem implemented_7 (ir j : Nat) (hK : ir / 128 = 0x7) (hj : ir % 8 + j < 8) :
    implemented (ir + j) = (decode_7 (ir / 8 % 16) (ir % 8 + j) (w65816_init false).1 0).isSome := by
  obtain ⟨h1, h2, h3⟩ := next_case ir 0x7 j hK hj
  unfold implemented w65816_decode
  rw [h1, h2, h3]

theorem implemented_8 (ir j : Nat) (hK : ir / 128 = 0x8) (hj : ir % 8 + j < 8) :
    implemented (ir + j) = (decode_8 (ir / 8 % 16) (ir % 8 + j) (w65816_init false).1 0).isSome := by
  obtain ⟨h1, h2, h3⟩ := next_case ir 0x8 j hK hj
  unfold implemented w65816_decode
  rw [h1, h2, h3]

theorem implemented_9 (ir j : Nat) (hK : ir / 128 = 0x9) (hj : ir % 8 + j < 8) :
    implemented (ir + j) = (decode_9 (ir / 8 % 16) (ir % 8 + j) (w65816_init false).1 0).isSome := by
  obtain ⟨h1, h2, h3⟩ := next_case ir 0x9 j hK hj
  unfold implemented w65816_decode
  rw [h1, h2, h3]

theorem implemented_A (ir j : Nat) (hK : ir / 128 = 0xA) (hj : ir % 8 + j < 8) :
    implemented (ir + j) = (decode_A (ir / 8 % 16) (ir % 8 + j) (w65816_init false).1 0).isSome := by
  obtain ⟨h1, h2, h3⟩ := next_case ir 0xA j hK hj
  unfold implemented w65816_decode
  rw [h1, h2, h3]

theorem implemented_B (ir j : Nat) (hK : ir / 128 = 0xB) (hj : ir % 8 + j < 8) :
    implemented (ir + j) = (decode_B (ir / 8 % 16) (ir % 8 + j) (w65816_init false).1 0).isSome := by
  obtain ⟨h1, h2, h3⟩ := next_case ir 0xB j hK hj
  unfold implemented w65816_decode
  rw [h1, h2, h3]

theorem implemented_C (ir j : Nat) (hK : ir / 128 = 0xC) (hj : ir % 8 + j < 8) :
    implemented (ir + j) = (decode_C (ir / 8 % 16) (ir % 8 + j) (w65816_init false).1 0).isSome := by
  obtain ⟨h1, h2, h3⟩ := next_case ir 0xC j hK hj
  unfold implemented w65816_decode
  rw [h1, h2, h3]

theorem implemented_D (ir j : Nat) (hK : ir / 128 = 0xD) (hj : ir % 8 + j < 8) :
    implemented (ir + j) = (decode_D (ir / 8 % 16) (ir % 8 + j) (w65816_init false).1 0).isSome := by
  obtain ⟨h1, h2, h3⟩ := next_case ir 0xD j hK hj
  unfold implemented w65816_decode
  rw [h1, h2, h3]

theorem implemented_E (ir j : Nat) (hK : ir / 128 = 0xE) (hj : ir % 8 + j < 8) :
    implemented (ir + j) = (decode_E (ir / 8 % 16) (ir % 8 + j) (w65816_init false).1 0).isSome := by
  obtain ⟨h1, h2, h3⟩ := next_case ir 0xE j hK hj
  unfold implemented w65816_decode
  rw [h1, h2, h3]

theorem implemented_F (ir j : Nat) (hK : ir / 128 = 0xF) (hj : ir % 8 + j < 8) :
    implemented (ir + j) = (decode_F (ir / 8 % 16) (ir % 8 + j) (w65816_init false).1 0).isSome := by
  obtain ⟨h1, h2, h3⟩ := next_case ir 0xF j hK hj
  unfold implemented w65816_decode
  rw [h1, h2, h3]

theorem live_arm_0 (ir : Nat) (c : w65816_t) (pins : Nat) (r : w65816_t × Nat)
    (hK : ir / 128 = 0x0) (h : decode_0 (ir / 8 % 16) (ir % 8) c pins = some r) :
    r.1.bcd_enabled = c.bcd_enabled ∧
    (sync_out r.2 = true ∨
      (r.1.IR = c.IR ∧ ir % 8 + 1 < 8 ∧ implemented (ir + 1) = true) ∨
      ((r.1.IR = (c.IR + 0) % 65536 ∨ r.1.IR = (c.IR + 1) % 65536) ∧ ir % 8 + 2 < 8 ∧
        implemented (ir + 1) = true ∧ implemented (ir + 2) = true)) := by
  obtain ⟨hb, hs | ⟨h1, h2, h3⟩ | ⟨h1, h2, h3, h4⟩⟩ := decode_0_live _ _ _ _ _ h
  · exact ⟨hb, Or.inl hs⟩
  · exact ⟨hb, Or.inr (Or.inl ⟨h1, h2, (implemented_0 ir 1 hK h2).trans h3⟩)⟩
  · exact ⟨hb, Or.inr (Or.inr ⟨h1, h2, (implemented_0 ir 1 hK (by omega)).trans h3,
      (implemented_0 ir 2 hK h2).trans h4⟩)⟩

theorem live_arm_1 (ir : Nat) (c : w65816_t) (pins : Nat) (r : w65816_t × Nat)
    (hK : ir / 128 = 0x1) (h : decode_1 (ir / 8 % 16) (ir % 8) c pins = some r) :
    r.1.bcd_enabled = c.bcd_enabled ∧
    (sync_out r.2 = true ∨
      (r.1.IR = c.IR ∧ ir % 8 + 1 < 8 ∧ implemented (ir + 1) = true) ∨
      ((r.1.IR = (c.IR + 0) % 65536 ∨ r.1.IR = (c.IR + 1) % 65536) ∧ ir % 8 + 2 < 8 ∧
        implemented (ir + 1) = true ∧ implemented (ir + 2) = true)) := by
  obtain ⟨hb, hs | ⟨h1, h2, h3⟩ | ⟨h1, h2, h3, h4⟩⟩ := decode_1_live _ _ _ _ _ h
  · exact ⟨hb, Or.inl hs⟩
  · exact ⟨hb, Or.inr (Or.inl ⟨h1, h2, (implemented_1 ir 1 hK h2).trans h3⟩)⟩
  · exact ⟨hb, Or.inr (Or.inr ⟨h1, h2, (implemented_1 ir 1 hK (by omega)).trans h3,
      (implemented_1 ir 2 hK h2).trans h4⟩)⟩

theorem live_arm_2 (ir : Nat) (c : w65816_t) (pins : Nat) (r : w65816_t × Nat)
    (hK : ir / 128 = 0x2) (h : decode_2 (ir / 8 % 16) (ir % 8) c pins = some r) :
    r.1.bcd_enabled = c.bcd_enabled ∧
    (sync_out r.2 = true ∨
      (r.1.IR = c.IR ∧ ir % 8 + 1 < 8 ∧ implemented (ir + 1) = true) ∨
      ((r.1.IR = (c.IR + 0) % 65536 ∨ r.1.IR = (c.IR + 1) % 65536) ∧ ir % 8 + 2 < 8 ∧
        implemented (ir + 1) = true ∧ implemented (ir + 2) = true)) := by
  obtain ⟨hb, hs | ⟨h1, h2, h3⟩ | ⟨h1, h2, h3, h4⟩⟩ := decode_2_live _ _ _ _ _ h
  · exact ⟨hb, Or.inl hs⟩
  · exact ⟨hb, Or.inr (Or.inl ⟨h1, h2, (implemented_2 ir 1 hK h2).trans h3⟩)⟩
  · exact ⟨hb, Or.inr (Or.inr ⟨h1, h2, (implemented_2 ir 1 hK (by omega)).trans h3,
      (implemented_2 ir 2 hK h2).trans h4⟩)⟩

theorem live_arm_3 (ir : Nat) (c : w65816_t) (pins : Nat) (r : w65816_t × Nat)
    (hK : ir / 128 = 0x3) (h : decode_3 (ir / 8 % 16) (ir % 8) c pins = some r) :
    r.1.bcd_enabled = c.bcd_enabled ∧
    (sync_out r.2 = true ∨
      (r.1.IR = c.IR ∧ ir % 8 + 1 < 8 ∧ implemented (ir + 1) = true) ∨
      ((r.1.IR = (c.IR + 0) % 65536 ∨ r.1.IR = (c.IR + 1) % 65536) ∧ ir % 8 + 2 < 8 ∧
        implemented (ir + 1) = true ∧ implemented (ir + 2) = true)) := by
  obtain ⟨hb, hs | ⟨h1, h2, h3⟩ | ⟨h1, h2, h3, h4⟩⟩ := decode_3_live _ _ _ _ _ h
  · exact ⟨hb, Or.inl hs⟩
  · exact ⟨hb, Or.inr (Or.inl ⟨h1, h2, (implemented_3 ir 1 hK h2).trans h3⟩)⟩
  · exact ⟨hb, Or.inr (Or.inr ⟨h1, h2, (implemented_3 ir 1 hK (by omega)).trans h3,
      (implemented_3 ir 2 hK h2).trans h4⟩)⟩

theorem live_arm_4 (ir : Nat) (c : w65816_t) (pins : Nat) (r : w65816_t × Nat)
    (hK : ir / 128 = 0x4) (h : decode_4 (ir / 8 % 16) (ir % 8) c pins = some r) :
    r.1.bcd_enabled = c.bcd_enabled ∧
    (sync_out r.2 = true ∨
      (r.1.IR = c.IR ∧ ir % 8 + 1 < 8 ∧ implemented (ir + 1) = true) ∨
      ((r.1.IR = (c.IR + 0) % 65536 ∨ r.1.IR = (c.IR + 1) % 65536) ∧ ir % 8 + 2 < 8 ∧
        implemented (ir + 1) = true ∧ implemented (ir + 2) = true)) := by
  obtain ⟨hb, hs | ⟨h1, h2, h3⟩ | ⟨h1, h2, h3, h4⟩⟩ := decode_4_live _ _ _ _ _ h
  · exact ⟨hb, Or.inl hs⟩
  · exact ⟨hb, Or.inr (Or.inl ⟨h1, h2, (implemented_4 ir 1 hK h2).trans h3⟩)⟩
  · exact ⟨hb, Or.inr (Or.inr ⟨h1, h2, (implemented_4 ir 1 hK (by omega)).trans h3,
      (implemented_4 ir 2 hK h2).trans h4⟩)⟩

theorem live_arm_5 (ir : Nat) (c : w65816_t) (pins : Nat) (r : w65816_t × Nat)
    (hK : ir / 128 = 0x5) (h : decode_5 (ir / 8 % 16) (ir % 8) c pins = some r) :
    r.1.bcd_enabled = c.bcd_enabled ∧
    (sync_out r.2 = true ∨
      (r.1.IR = c.IR ∧ ir % 8 + 1 < 8 ∧ implemented (ir + 1) = true) ∨
      ((r.1.IR = (c.IR + 0) % 65536 ∨ r.1.IR = (c.IR + 1) % 65536) ∧ ir % 8 + 2 < 8 ∧
        implemented (ir + 1) = true ∧ implemented (ir + 2) = true)) := by
  obtain ⟨hb, hs | ⟨h1, h2, h3⟩ | ⟨h1, h2, h3, h4⟩⟩ := decode_5_live _ _ _ _ _ h
  · exact ⟨hb, Or.inl hs⟩
  · exact ⟨hb, Or.inr (Or.inl ⟨h1, h2, (implemented_5 ir 1 hK h2).trans h3⟩)⟩
  · exact ⟨hb, Or.inr (Or.inr ⟨h1, h2, (implemented_5 ir 1 hK (by omega)).trans h3,
      (implemented_5 ir 2 hK h2).trans h4⟩)⟩

theorem live_arm_6 (ir : Nat) (c : w65816_t) (pins : Nat) (r : w65816_t × Nat)
    (hK : ir / 128 = 0x6) (h : decode_6 (ir / 8 % 16) (ir % 8) c pins = some r) :
    r.1.bcd_enabled = c.bcd_enabled ∧
    (sync_out r.2 = true ∨
      (r.1.IR = c.IR ∧ ir % 8 + 1 < 8 ∧ implemented (ir + 1) = true) ∨
      ((r.1.IR = (c.IR + 0) % 65536 ∨ r.1.IR = (c.IR + 1) % 65536) ∧ ir % 8 + 2 < 8 ∧
        implemented (ir + 1) = true ∧ implemented (ir + 2) = true)) := by
  obtain ⟨hb, hs | ⟨h1, h2, h3⟩ | ⟨h1, h2, h3, h4⟩⟩ := decode_6_live _ _ _ _ _ h
  · exact ⟨hb, Or.inl hs⟩
  · exact ⟨hb, Or.inr (Or.inl ⟨h1, h2, (implemented_6 ir 1 hK h2).trans h3⟩)⟩
  · exact ⟨hb, Or.inr (Or.inr ⟨h1, h2, (implemented_6 ir 1 hK (by omega)).trans h3,
      (implemented_6 ir 2 hK h2).trans h4⟩)⟩

theorem live_arm_7 (ir : Nat) (c : w65816_t) (pins : Nat) (r : w65816_t × Nat)
    (hK : ir / 128 = 0x7) (h : decode_7 (ir / 8 % 16) (ir % 8) c pins = some r) :
    r.1.bcd_enabled = c.bcd_enabled ∧
    (sync_out r.2 = true ∨
      (r.1.IR = c.IR ∧ ir % 8 + 1 < 8 ∧ implemented (ir + 1) = true) ∨
      ((r.1.IR = (c.IR + 0) % 65536 ∨ r.1.IR = (c.IR + 1) % 65536) ∧ ir % 8 + 2 < 8 ∧
        implemented (ir + 1) = true ∧ implemented (ir + 2) = true)) := by
  obtain ⟨hb, hs | ⟨h1, h2, h3⟩ | ⟨h1, h2, h3, h4⟩⟩ := decode_7_live _ _ _ _ _ h
  · exact ⟨hb, Or.inl hs⟩
  · exact ⟨hb, Or.inr (Or.inl ⟨h1, h2, (implemented_7 ir 1 hK h2).trans h3⟩)⟩
  · exact ⟨hb, Or.inr (Or.inr ⟨h1, h2, (implemented_7 ir 1 hK (by omega)).trans h3,
      (implemented_7 ir 2 hK h2).trans h4⟩)⟩

theorem live_arm_8 (ir : Nat) (c : w65816_t) (pins : Nat) (r : w65816_t × Nat)
    (hK : ir / 128 = 0x8) (h : decode_8 (ir / 8 % 16) (ir % 8) c pins = some r) :
    r.1.bcd_enabled = c.bcd_enabled ∧
    (sync_out r.2 = true ∨
      (r.1.IR = c.IR ∧ ir % 8 + 1 < 8 ∧ implemented (ir + 1) = true) ∨
      ((r.1.IR = (c.IR + 0) % 65536 ∨ r.1.IR = (c.IR + 1) % 65536) ∧ ir % 8 + 2 < 8 ∧
        implemented (ir + 1) = true ∧ implemented (ir + 2) = true)) := by
  obtain ⟨hb, hs | ⟨h1, h2, h3⟩ | ⟨h1, h2, h3, h4⟩⟩ := decode_8_live _ _ _ _ _ h
  · exact ⟨hb, Or.inl hs⟩
  · exact ⟨hb, Or.inr (Or.inl ⟨h1, h2, (implemented_8 ir 1 hK h2).trans h3⟩)⟩
  · exact ⟨hb, Or.inr (Or.inr ⟨h1, h2, (implemented_8 ir 1 hK (by omega)).trans h3,
      (implemented_8 ir 2 hK h2).trans h4⟩)⟩

theorem live_arm_9 (ir : Nat) (c : w65816_t) (pins : Nat) (r : w65816_t × Nat)
    (hK : ir / 128 = 0x9) (h : decode_9 (ir / 8 % 16) (ir % 8) c pins = some r) :
    r.1.bcd_enabled = c.bcd_enabled ∧
    (sync_out r.2 = true ∨
      (r.1.IR = c.IR ∧ ir % 8 + 1 < 8 ∧ implemented (ir + 1) = true) ∨
      ((r.1.IR = (c.IR + 0) % 65536 ∨ r.1.IR = (c.IR + 1) % 65536) ∧ ir % 8 + 2 < 8 ∧
        implemented (ir + 1) = true ∧ implemented (ir + 2) = true)) := by
  obtain ⟨hb, hs | ⟨h1, h2, h3⟩ | ⟨h1, h2, h3, h4⟩⟩ := decode_9_live _ _ _ _ _ h
  · exact ⟨hb, Or.inl hs⟩
  · exact ⟨hb, Or.inr (Or.inl ⟨h1, h2, (implemented_9 ir 1 hK h2).trans h3⟩)⟩
  · exact ⟨hb, Or.inr (Or.inr ⟨h1, h2, (implemented_9 ir 1 hK (by omega)).trans h3,
      (implemented_9 ir 2 hK h2).trans h4⟩)⟩

theorem live_arm_A (ir : Nat) (c : w65816_t) (pins : Nat) (r : w65816_t × Nat)
    (hK : ir / 128 = 0xA) (h : decode_A (ir / 8 % 16) (ir % 8) c pins = some r) :
    r.1.bcd_enabled = c.bcd_enabled ∧
    (sync_out r.2 = true ∨
      (r.1.IR = c.IR ∧ ir % 8 + 1 < 8 ∧ implemented (ir + 1) = true) ∨
      ((r.1.IR = (c.IR + 0) % 65536 ∨ r.1.IR = (c.IR + 1) % 65536) ∧ ir % 8 + 2 < 8 ∧
        implemented (ir + 1) = true ∧ implemented (ir + 2) = true)) := by
  obtain ⟨hb, hs | ⟨h1, h2, h3⟩ | ⟨h1, h2, h3, h4⟩⟩ := decode_A_live _ _ _ _ _ h
  · exact ⟨hb, Or.inl hs⟩
  · exact ⟨hb, Or.inr (Or.inl ⟨h1, h2, (implemented_A ir 1 hK h2).trans h3⟩)⟩
  · exact ⟨hb, Or.inr (Or.inr ⟨h1, h2, (implemented_A ir 1 hK (by omega)).trans h3,
      (implemented_A ir 2 hK h2).trans h4⟩)⟩

theorem live_arm_B (ir : Nat) (c : w65816_t) (pins : Nat) (r : w65816_t × Nat)
    (hK : ir / 128 = 0xB) (h : decode_B (ir / 8 % 16) (ir % 8) c pins = some r) :
    r.1.bcd_enabled = c.bcd_enabled ∧
    (sync_out r.2 = true ∨
      (r.1.IR = c.IR ∧ ir % 8 + 1 < 8 ∧ implemented (ir + 1) = true) ∨
      ((r.1.IR = (c.IR + 0) % 65536 ∨ r.1.IR = (c.IR + 1) % 65536) ∧ ir % 8 + 2 < 8 ∧
        implemented (ir + 1) = true ∧ implemented (ir + 2) = true)) := by
  obtain ⟨hb, hs | ⟨h1, h2, h3⟩ | ⟨h1, h2, h3, h4⟩⟩ := decode_B_live _ _ _ _ _ h
  · exact ⟨hb, Or.inl hs⟩
  · exact ⟨hb, Or.inr (Or.inl ⟨h1, h2, (implemented_B ir 1 hK h2).trans h3⟩)⟩
  · exact ⟨hb, Or.inr (Or.inr ⟨h1, h2, (implemented_B ir 1 hK (by omega)).trans h3,
      (implemented_B ir 2 hK h2).trans h4⟩)⟩

theorem live_arm_C (ir : Nat) (c : w65816_t) (pins : Nat) (r : w65816_t × Nat)
    (hK : ir / 128 = 0xC) (h : decode_C (ir / 8 % 16) (ir % 8) c pins = some r) :
    r.1.bcd_enabled = c.bcd_enabled ∧
    (sync_out r.2 = true ∨
      (r.1.IR = c.IR ∧ ir % 8 + 1 < 8 ∧ implemented (ir + 1) = true) ∨
      ((r.1.IR = (c.IR + 0) % 65536 ∨ r.1.IR = (c.IR + 1) % 65536) ∧ ir % 8 + 2 < 8 ∧
        implemented (ir + 1) = true ∧ implemented (ir + 2) = true)) := by
  obtain ⟨hb, hs | ⟨h1, h2, h3⟩ | ⟨h1, h2, h3, h4⟩⟩ := decode_C_live _ _ _ _ _ h
  · exact ⟨hb, Or.inl hs⟩
  · exact ⟨hb, Or.inr (Or.inl ⟨h1, h2, (implemented_C ir 1 hK h2).trans h3⟩)⟩
  · exact ⟨hb, Or.inr (Or.inr ⟨h1, h2, (implemented_C ir 1 hK (by omega)).trans h3,
      (implemented_C ir 2 hK h2).trans h4⟩)⟩

theorem live_arm_D (ir : Nat) (c : w65816_t) (pins : Nat) (r : w65816_t × Nat)
    (hK : ir / 128 = 0xD) (h : decode_D (ir / 8 % 16) (ir % 8) c pins = some r) :
    r.1.bcd_enabled = c.bcd_enabled ∧
    (sync_out r.2 = true ∨
      (r.1.IR = c.IR ∧ ir % 8 + 1 < 8 ∧ implemented (ir + 1) = true) ∨
      ((r.1.IR = (c.IR + 0) % 65536 ∨ r.1.IR = (c.IR + 1) % 65536) ∧ ir % 8 + 2 < 8 ∧
        implemented (ir + 1) = true ∧ implemented (ir + 2) = true)) := by
  obtain ⟨hb, hs | ⟨h1, h2, h3⟩ | ⟨h1, h2, h3, h4⟩⟩ := decode_D_live _ _ _ _ _ h
  · exact ⟨hb, Or.inl hs⟩
  · exact ⟨hb, Or.inr (Or.inl ⟨h1, h2, (implemented_D ir 1 hK h2).trans h3⟩)⟩
  · exact ⟨hb, Or.inr (Or.inr ⟨h1, h2, (implemented_D ir 1 hK (by omega)).trans h3,
      (implemented_D ir 2 hK h2).trans h4⟩)⟩

theorem live_arm_E (ir : Nat) (c : w65816_t) (pins : Nat) (r : w65816_t × Nat)
    (hK : ir / 128 = 0xE) (h : decode_E (ir / 8 % 16) (ir % 8) c pins = some r) :
    r.1.bcd_enabled = c.bcd_enabled ∧
    (sync_out r.2 = true ∨
      (r.1.IR = c.IR ∧ ir % 8 + 1 < 8 ∧ implemented (ir + 1) = true) ∨
      ((r.1.IR = (c.IR + 0) % 65536 ∨ r.1.IR = (c.IR + 1) % 65536) ∧ ir % 8 + 2 < 8 ∧
        implemented (ir + 1) = true ∧ implemented (ir + 2) = true)) := by
  obtain ⟨hb, hs | ⟨h1, h2, h3⟩ | ⟨h1, h2, h3, h4⟩⟩ := decode_E_live _ _ _ _ _ h
  · exact ⟨hb, Or.inl hs⟩
  · exact ⟨hb, Or.inr (Or.inl ⟨h1, h2, (implemented_E ir 1 hK h2).trans h3⟩)⟩
  · exact ⟨hb, Or.inr (Or.inr ⟨h1, h2, (implemented_E ir 1 hK (by omega)).trans h3,
      (implemented_E ir 2 hK h2).trans h4⟩)⟩

theorem live_arm_F (ir : Nat) (c : w65816_t) (pins : Nat) (r : w65816_t × Nat)
    (hK : ir / 128 = 0xF) (h : decode_F (ir / 8 % 16) (ir % 8) c pins = some r) :
    r.1.bcd_enabled = c.bcd_enabled ∧
    (sync_out r.2 = true ∨
      (r.1.IR = c.IR ∧ ir % 8 + 1 < 8 ∧ implemented (ir + 1) = true) ∨
      ((r.1.IR = (c.IR + 0) % 65536 ∨ r.1.IR = (c.IR + 1) % 65536) ∧ ir % 8 + 2 < 8 ∧
        implemented (ir + 1) = true ∧ implemented (ir + 2) = true)) := by
  obtain ⟨hb, hs | ⟨h1, h2, h3⟩ | ⟨h1, h2, h3, h4⟩⟩ := decode_F_live _ _ _ _ _ h
  · exact ⟨hb, Or.inl hs⟩
  · exact ⟨hb, Or.inr (Or.inl ⟨h1, h2, (implemented_F ir 1 hK h2).trans h3⟩)⟩
  · exact ⟨hb, Or.inr (Or.inr ⟨h1, h2, (implemented_F ir 1 hK (by omega)).trans h3,
      (implemented_F ir 2 hK h2).trans h4⟩)⟩

/-- Every implemented decoder case leaves `bcd_enabled` as it was, and it issues the opcode
fetch or leaves `IR` at an implemented case of the same opcode. -/
theorem decode_live (ir : Nat) (c : w65816_t) (pins : Nat) (r : w65816_t × Nat)
    (h : w65816_decode ir c pins = some r) :
    r.1.bcd_enabled = c.bcd_enabled ∧
    (sync_out r.2 = true ∨
      (r.1.IR = c.IR ∧ ir % 8 + 1 < 8 ∧ implemented (ir + 1) = true) ∨
      ((r.1.IR = (c.IR + 0) % 65536 ∨ r.1.IR = (c.IR + 1) % 65536) ∧ ir % 8 + 2 < 8 ∧
        implemented (ir + 1) = true ∧ implemented (ir + 2) = true)) := by
  unfold w65816_decode at h
  generalize hK : ir / 128 = K at h
  split at h
  · exact live_arm_0 ir c pins r hK h
  · exact live_arm_1 ir c pins r hK h
  · exact live_arm_2 ir c pins r hK h
  · exact live_arm_3 ir c pins r hK h
  · exact live_arm_4 ir c pins r hK h
  · exact live_arm_5 ir c pins r hK h
  · exact live_arm_6 ir c pins r hK h
  · exact live_arm_7 ir c pins r hK h
  · exact live_arm_8 ir c pins r hK h
  · exact live_arm_9 ir c pins r hK h
  · exact live_arm_A ir c pins r hK h
  · exact live_arm_B ir c pins r hK h
  · exact live_arm_C ir c pins r hK h
  · exact live_arm_D ir c pins r hK h
  · exact live_arm_E ir c pins r hK h
  · exact live_arm_F ir c pins r hK h
  · exact Option.noConfusion h

/-! ## No tick reaches `assert(false)` -/

theorem sync_out_iff (p : Nat) :
    sync_out p = true ↔ (p &&& W65816_VPA ≠ 0 ∧ p &&& W65816_VDA ≠ 0) := by
  unfold sync_out
  rw [decide_eq_true_eq]

theorem implemented_lt (ir : Nat) (h : implemented ir = true) : ir < 2048 := by
  by_contra hn
  have h2 : w65816_decode ir (w65816_init false).1 0 = none := by
    unfold w65816_decode
    split <;> first | rfl | omega
  unfold implemented at h
  rw [h2] at h
  exact Bool.noConfusion h

set_option maxRecDepth 100000 in
theorem implemented_step0 : ∀ d, d < 256 → implemented (d * 8) = true := by
  decide

theorem tick_detect_bcd (c : w65816_t) (pins : Nat) :
    (tick_detect c pins).bcd_enabled = c.bcd_enabled := by
  rw [tick_detect_frame]

theorem tick_sync_bcd (c : w65816_t) (pins : Nat) :
    (tick_sync c pins).1.bcd_enabled = c.bcd_enabled := by
  simp only [tick_sync, tick_sync_latch, tick_sync_force]
  split_ifs <;> rfl

theorem tick_finish_bcd (c : w65816_t) (p : Nat) :
    (tick_finish c p).1.bcd_enabled = c.bcd_enabled := by
  simp only [tick_finish]
  split_ifs <;> rfl

theorem GD_lt (pins : Nat) : _GD pins < 256 := by
  unfold _GD
  exact Nat.mod_lt _ (by decide)

/-- The sync handling leaves `IR` at sub-cycle 0 of an opcode, which is implemented. -/
theorem tick_sync_implemented (c : w65816_t) (pins : Nat) :
    implemented (tick_sync c pins).1.IR = true := by
  obtain ⟨h1, h2⟩ := tick_sync_cases c pins
  by_cases hb : (tick_sync c pins).1.brk_flags = 0
  · rw [(h2 hb).1]
    have hg := GD_lt pins
    have e : (_GD pins <<< 3) % 65536 = _GD pins * 8 := by
      rw [Nat.shiftLeft_eq]
      omega
    rw [e]
    exact implemented_step0 _ hg
  · rw [(h1 hb).1]
    exact implemented_step0 0 (by decide)

/-- The decoder and the normalisation at an implemented case: the tick returns, keeps
`bcd_enabled`, and the returned pins announce a fetch or `IR` is at an implemented case. -/
theorem decode_finish_live (c : w65816_t) (p : Nat) (h : implemented c.IR = true) :
    ∃ r, (tick_decode c p).map (fun r => tick_finish r.1 r.2) = some r ∧
      r.1.bcd_enabled = c.bcd_enabled ∧
      (sync_out r.2 = true ∨
        (implemented r.1.IR = true ∧ c.IR < r.1.IR ∧ r.1.IR / 8 = c.IR / 8)) := by
  have hlt := implemented_lt _ h
  have hs : (w65816_decode c.IR { c with IR := (c.IR + 1) % 65536 } (_RD p)).isSome = true := by
    rw [decode_isSome]; exact h
  obtain ⟨r, hr⟩ := Option.isSome_iff_exists.1 hs
  have hd : tick_decode c p = some r := hr
  obtain ⟨hb, hl⟩ := decode_live _ _ _ _ hr
  have e1 : (c.IR + 1) % 65536 = c.IR + 1 := Nat.mod_eq_of_lt (by omega)
  have hIR : ({ c with IR := (c.IR + 1) % 65536 } : w65816_t).IR = c.IR + 1 := e1
  rw [hIR] at hl
  refine ⟨tick_finish r.1 r.2, by rw [hd]; rfl, ?_, ?_⟩
  · rw [tick_finish_bcd, hb]
  · rw [tick_finish_snd, tick_finish_IR]
    rcases hl with hs | ⟨h1, h2, h3⟩ | ⟨h1, h2, h3, h4⟩
    · exact Or.inl hs
    · refine Or.inr ⟨by rw [h1]; exact h3, by omega, by omega⟩
    · have e2 : (c.IR + 1 + 0) % 65536 = c.IR + 1 := Nat.mod_eq_of_lt (by omega)
      have e3 : (c.IR + 1 + 1) % 65536 = c.IR + 2 := Nat.mod_eq_of_lt (by omega)
      rw [e2, e3] at h1
      rcases h1 with h1 | h1
      · refine Or.inr ⟨by rw [h1]; exact h3, by omega, by omega⟩
      · refine Or.inr ⟨by rw [h1]; exact h4, by omega, by omega⟩

theorem decode_finish_bcd (c : w65816_t) (p : Nat) (r : w65816_t × Nat)
    (h : (tick_decode c p).map (fun r => tick_finish r.1 r.2) = some r) :
    r.1.bcd_enabled = c.bcd_enabled := by
  obtain ⟨r0, h0, h1⟩ := Option.map_eq_some'.1 h
  have hb := (decode_live _ _ _ _ (show w65816_decode c.IR { c with IR := (c.IR + 1) % 65536 }
    (_RD p) = some r0 from h0)).1
  rw [← h1, tick_finish_bcd, hb]

/-- Every tick leaves `bcd_enabled` as `w65816_init` set it. -/
theorem tick_bcd (c : w65816_t) (pins : Nat) (r : w65816_t × Nat)
    (h : w65816_tick c pins = some r) : r.1.bcd_enabled = c.bcd_enabled := by
  by_cases hst : pins &&& (W65816_RW ||| W65816_RDY) = W65816_RW ||| W65816_RDY
  · rw [tick_stalled c pins hst] at h
    cases h
    exact tick_detect_bcd c pins
  · by_cases hsy : pins &&& W65816_VPA ≠ 0 ∧ pins &&& W65816_VDA ≠ 0
    · rw [tick_sync_raw c pins hsy.1 hsy.2 hst] at h
      rw [decode_finish_bcd _ _ _ h, tick_sync_bcd, tick_detect_bcd]
    · obtain ⟨p1, hp⟩ := tick_nosync_raw c pins hsy hst
      rw [hp] at h
      rw [decode_finish_bcd _ _ _ h, tick_detect_bcd]

/-- One tick from a state whose pins announce a fetch or whose `IR` is at an implemented case:
the tick returns, and the same holds of the state and the pins it returns. -/
theorem tick_live (c : w65816_t) (pins : Nat)
    (h : sync_out pins = true ∨ implemented c.IR = true) :
    ∃ r, w65816_tick c pins = some r ∧
      (sync_out r.2 = true ∨ implemented r.1.IR = true) := by
  by_cases hst : pins &&& (W65816_RW ||| W65816_RDY) = W65816_RW ||| W65816_RDY
  · refine ⟨_, tick_stalled c pins hst, ?_⟩
    rcases h with h | h
    · exact Or.inl h
    · exact Or.inr (by rw [← tick_detect_IR c pins] at h; exact h)
  · by_cases hsy : pins &&& W65816_VPA ≠ 0 ∧ pins &&& W65816_VDA ≠ 0
    · rw [tick_sync_raw c pins hsy.1 hsy.2 hst]
      obtain ⟨r, hr, _, hl⟩ := decode_finish_live (tick_sync (tick_detect c pins) pins).1
        (_OFF (tick_sync (tick_detect c pins) pins).2 (W65816_VPA ||| W65816_VDA))
        (tick_sync_implemented _ _)
      exact ⟨r, hr, hl.imp id (fun x => x.1)⟩
    · obtain ⟨p1, hp⟩ := tick_nosync_raw c pins hsy hst
      rw [hp]
      have hi : implemented (tick_detect c pins).IR = true := by
        rw [tick_detect_IR]
        rcases h with h | h
        · exact absurd ((sync_out_iff pins).1 h) hsy
        · exact h
      obtain ⟨r, hr, _, hl⟩ := decode_finish_live (tick_detect c pins) p1 hi
      exact ⟨r, hr, hl.imp id (fun x => x.1)⟩

theorem fed_bit (p q k : Nat) (h : host_fed p q = true)
    (hk : (NOT64 host_bits).testBit k = true) : q.testBit k = p.testBit k := by
  unfold host_fed at h
  have h1 := congrArg (fun x => Nat.testBit x k) (beq_iff_eq.1 h)
  simp only [Nat.testBit_and, hk, Bool.and_true] at h1
  exact h1

theorem fed_sync (p q : Nat) (h : host_fed p q = true) : sync_out q = sync_out p := by
  have h1 := fed_bit p q 25 h (by decide)
  have h2 := fed_bit p q 26 h (by decide)
  have e : ∀ x, sync_out x = (x.testBit 25 && x.testBit 26) := by
    intro x
    rw [Bool.eq_iff_iff, sync_out_iff, Bool.and_eq_true]
    exact and_congr (flag_ne x 25) (flag_ne x 26)
  rw [e, e, h1, h2]

/-- The memory access of the documented host loop follows the host protocol: it changes at
most the data bus. -/
theorem host_access_fed (mem : Mem) (p : Nat) : host_fed p (host_access mem p).2 = true := by
  unfold host_access host_fed
  rw [beq_iff_eq]
  dsimp only []
  split_ifs
  · apply Nat.eq_of_testBit_eq
    intro i
    have e : NOT64 host_bits = NOT64 host_bits &&& NOT64 0xFF0000 := by decide
    rw [e, ← Nat.and_assoc, ← Nat.and_assoc]
    simp only [Nat.testBit_and]
    by_cases hm : (NOT64 0xFF0000).testBit i = true
    · have hd : (0xFF0000 : Nat).testBit i = false := by
        rw [testBit_not_data_mask, decide_eq_true_eq] at hm
        rw [testBit_data_mask, decide_eq_false_iff_not]
        omega
      have e2 : (W65816_SET_DATA p (mem (W65816_GET_ADDR p) % 256)).testBit i = p.testBit i := by
        simp only [W65816_SET_DATA, Nat.testBit_or, Nat.testBit_and, hm, hd, Bool.and_true,
          Bool.and_false, Bool.or_false]
      rw [e2]
    · rw [Bool.not_eq_true] at hm
      rw [hm, Bool.and_false, Bool.and_false]
  · rfl

/-- Runs under any host that follows the protocol never reach `assert(false)`. -/
theorem fed_run_live (env : Nat → Nat → Nat) (henv : ∀ k p, host_fed p (env k p) = true)
    (n : Nat) : ∀ (k : Nat) (s : w65816_t × Nat),
      (sync_out s.2 = true ∨ implemented s.1.IR = true) →
      ∃ s1, fed_run env n k s = some s1 ∧
        (sync_out s1.2 = true ∨ implemented s1.1.IR = true) := by
  induction n with
  | zero => intro k s h; exact ⟨s, rfl, h⟩
  | succ n ih =>
    intro k s h
    obtain ⟨r, hr, hl⟩ := tick_live s.1 s.2 h
    have h2 : sync_out (r.1, env k r.2).2 = true ∨ implemented (r.1, env k r.2).1.IR = true := by
      rcases hl with hl | hl
      · exact Or.inl (by rw [← hl]; exact fed_sync _ _ (henv k r.2))
      · exact Or.inr hl
    obtain ⟨s1, hs1, hl1⟩ := ih (k + 1) (r.1, env k r.2) h2
    refine ⟨s1, ?_, hl1⟩
    rw [fed_run, hr]
    exact hs1

/-- The documented host loop never reaches `assert(false)`. -/
theorem host_run_live (n : Nat) : ∀ (s : Sys),
      (sync_out s.pins = true ∨ implemented s.cpu.IR = true) →
      ∃ s1, host_run n s = some s1 ∧
        (sync_out s1.pins = true ∨ implemented s1.cpu.IR = true) := by
  induction n with
  | zero => intro s h; exact ⟨s, rfl, h⟩
  | succ n ih =>
    intro s h
    obtain ⟨r, hr, hl⟩ := tick_live s.cpu s.pins h
    have h2 : sync_out (host_access s.mem r.2).2 = true ∨ implemented r.1.IR = true := by
      rcases hl with hl | hl
      · exact Or.inl (by rw [← hl]; exact fed_sync _ _ (host_access_fed _ _))
      · exact Or.inr hl
    obtain ⟨s1, hs1, hl1⟩ :=
      ih (Sys.mk r.1 (host_access s.mem r.2).2 (host_access s.mem r.2).1) h2
    refine ⟨s1, ?_, hl1⟩
    rw [host_run, host_step, hr]
    exact hs1

/-- Raising input lines follows the host protocol. -/
theorem fed_or (p m : Nat) (hm : m &&& NOT64 host_bits = 0) : host_fed p (p ||| m) = true := by
  unfold host_fed
  rw [beq_iff_eq, Nat.and_comm, Nat.and_or_distrib_left, Nat.and_comm _ m, hm, Nat.or_zero,
    Nat.and_comm]

theorem init_sync (b : Bool) : sync_out (w65816_init b).2 = true := by
  cases b <;> decide

/-- C26: under the host protocol (every returned pin word is passed to the next tick with at
most the data bus and the input pins IRQ, NMI, RDY, RES changed, `host_fed`) no tick ever
executes an `assert(false)` sub-cycle, whatever the host puts on the data bus and the input
pins: started from `w65816_init`, every run of `n` ticks returns (`fed_run`), and so does the
documented host loop on every memory content (`host_run`); between two ticks the pins
announce an opcode fetch or `IR` is at an implemented sub-cycle.  This holds because sub-cycle
0 of every opcode byte is implemented, whether a decoder case asserts does not depend on the
state, and every implemented decoder case either issues the fetch (VPA and VDA set, so the
next tick reloads `IR`) or leaves `IR` at a later implemented sub-cycle of the same opcode. -/
theorem no_assert_reached (env : Nat → Nat → Nat)
    (henv : ∀ k p, host_fed p (env k p) = true) (b : Bool) (n : Nat) :
    (∃ s, fed_run env n 0 (w65816_init b) = some s ∧
      (sync_out s.2 = true ∨ implemented s.1.IR = true)) ∧
    (∀ mem : Mem, ∃ s, host_run n (host_init b mem) = some s ∧
      (sync_out s.pins = true ∨ implemented s.cpu.IR = true)) ∧
    (∀ d, d < 256 → implemented (d * 8) = true) ∧
    (∀ ir c pins, (w65816_decode ir c pins).isSome = implemented ir) ∧
    (∀ c p, implemented c.IR = true →
      ∃ r, (tick_decode c p).map (fun r => tick_finish r.1 r.2) = some r ∧
        (sync_out r.2 = true ∨
          (implemented r.1.IR = true ∧ c.IR < r.1.IR ∧ r.1.IR / 8 = c.IR / 8))) := by
  refine ⟨fed_run_live env henv n 0 _ (Or.inl (init_sync b)),
    fun mem => host_run_live n _ (Or.inl (init_sync b)), implemented_step0, decode_isSome, ?_⟩
  intro c p h
  obtain ⟨r, hr, _, hl⟩ := decode_finish_live c p h
  exact ⟨r, hr, hl⟩

theorem no_assert_reached_witness :
    (∀ k p, host_fed p ((fun (_ : Nat) (q : Nat) => q ||| W65816_IRQ) k p) = true) ∧
    ∃ s, fed_run (fun _ q => q ||| W65816_IRQ) 24 0 (w65816_init false) = some s ∧
      (sync_out s.2 = true ∨ implemented s.1.IR = true) :=
  ⟨fun _ p => fed_or p W65816_IRQ (by decide),
    (no_assert_reached (fun _ q => q ||| W65816_IRQ)
      (fun _ p => fed_or p W65816_IRQ (by decide)) false 24).1⟩

/-! ## ADC and SBC with BCD arithmetic disabled -/

theorem sbc_bin_P (c : w65816_t) (v : Nat) (hbin : ¬ (c.bcd_enabled ≠ 0 ∧ c.P &&& W65816_DF ≠ 0)) :
    (_w65816_sbc c v).P =
      (let diff := (_A c + 65536 - v % 256 - (if c.P &&& W65816_CF ≠ 0 then 0 else 1)) % 65536
       let p1 := _W65816_NZ ((c.P &&& NOT32 (W65816_VF ||| W65816_CF)) % 256) (diff % 256)
       let p2 := if (_A c ^^^ v % 256) &&& (_A c ^^^ diff) &&& 0x80 ≠ 0 then
                   (p1 ||| W65816_VF) % 256 else p1
       if diff &&& 0xFF00 = 0 then (p2 ||| W65816_CF) % 256 else p2) := by
  unfold _w65816_sbc
  simp only [if_neg hbin, ite_P, ite_C, ite_self, set_A, _A]

theorem sbc_bin_C (c : w65816_t) (v : Nat) (hbin : ¬ (c.bcd_enabled ≠ 0 ∧ c.P &&& W65816_DF ≠ 0)) :
    (_w65816_sbc c v).C =
      (c.C &&& 0xFF00) |||
        (((_A c + 65536 - v % 256 - (if c.P &&& W65816_CF ≠ 0 then 0 else 1)) % 65536 &&& 0xFF)
          &&& 0xFF) := by
  unfold _w65816_sbc
  simp only [if_neg hbin, ite_C, set_A, _A, ite_self]

/-- The binary-mode flag computation of ADC reads `P` bit by bit: bit `i` of the result
depends on `P` through bit `i` only. -/
theorem adc_P_bit (P1 P2 a v cin i : Nat) (hP : P1.testBit i = P2.testBit i) :
    (let sum := (a + v % 256 + cin) % 65536
     let p1 := _W65816_NZ ((P1 &&& NOT32 (W65816_VF ||| W65816_CF)) % 256) sum
     let p2 := if NOT32 (a ^^^ v % 256) &&& (a ^^^ sum) &&& 0x80 ≠ 0 then
                 (p1 ||| W65816_VF) % 256 else p1
     if sum &&& 0xFF00 ≠ 0 then (p2 ||| W65816_CF) % 256 else p2).testBit i =
    (let sum := (a + v % 256 + cin) % 65536
     let p1 := _W65816_NZ ((P2 &&& NOT32 (W65816_VF ||| W65816_CF)) % 256) sum
     let p2 := if NOT32 (a ^^^ v % 256) &&& (a ^^^ sum) &&& 0x80 ≠ 0 then
                 (p1 ||| W65816_VF) % 256 else p1
     if sum &&& 0xFF00 ≠ 0 then (p2 ||| W65816_CF) % 256 else p2).testBit i := by
  simp only [_W65816_NZ]
  split_ifs <;>
    simp only [Nat.testBit_or, Nat.testBit_and, testBit_mod256, hP]

theorem sbc_P_bit (P1 P2 a v cin i : Nat) (hP : P1.testBit i = P2.testBit i) :
    (let diff := (a + 65536 - v % 256 - cin) % 65536
     let p1 := _W65816_NZ ((P1 &&& NOT32 (W65816_VF ||| W65816_CF)) % 256) (diff % 256)
     let p2 := if (a ^^^ v % 256) &&& (a ^^^ diff) &&& 0x80 ≠ 0 then
                 (p1 ||| W65816_VF) % 256 else p1
     if diff &&& 0xFF00 = 0 then (p2 ||| W65816_CF) % 256 else p2).testBit i =
    (let diff := (a + 65536 - v % 256 - cin) % 65536
     let p1 := _W65816_NZ ((P2 &&& NOT32 (W65816_VF ||| W65816_CF)) % 256) (diff % 256)
     let p2 := if (a ^^^ v % 256) &&& (a ^^^ diff) &&& 0x80 ≠ 0 then
                 (p1 ||| W65816_VF) % 256 else p1
     if diff &&& 0xFF00 = 0 then (p2 ||| W65816_CF) % 256 else p2).testBit i := by
  simp only [_W65816_NZ]
  split_ifs <;>
    simp only [Nat.testBit_or, Nat.testBit_and, testBit_mod256, hP]

theorem adc_P_bit3 (P a v cin : Nat) :
    (let sum := (a + v % 256 + cin) % 65536
     let p1 := _W65816_NZ ((P &&& NOT32 (W65816_VF ||| W65816_CF)) % 256) sum
     let p2 := if NOT32 (a ^^^ v % 256) &&& (a ^^^ sum) &&& 0x80 ≠ 0 then
                 (p1 ||| W65816_VF) % 256 else p1
     if sum &&& 0xFF00 ≠ 0 then (p2 ||| W65816_CF) % 256 else p2).testBit 3 = P.testBit 3 := by
  simp only [_W65816_NZ, W65816_CF, W65816_VF, W65816_NF, W65816_ZF]
  split_ifs <;>
    simp only [Nat.testBit_or, Nat.testBit_and, testBit_mod256, testBit_NOT32,
      Nat.reduceShiftLeft, Nat.reduceOr] <;>
    simp only [Nat.testBit_to_div_mod, Nat.reducePow, Nat.reduceDiv,
      Nat.reduceMod, Nat.reduceLT, Nat.reduceEqDiff, decide_True, decide_False, Bool.true_and,
      Bool.and_true, Bool.false_and, Bool.and_false, Bool.or_false, Bool.false_or, Bool.not_false,
      Bool.not_true, decide_eq_true_eq]

theorem sbc_P_bit3 (P a v cin : Nat) :
    (let diff := (a + 65536 - v % 256 - cin) % 65536
     let p1 := _W65816_NZ ((P &&& NOT32 (W65816_VF ||| W65816_CF)) % 256) (diff % 256)
     let p2 := if (a ^^^ v % 256) &&& (a ^^^ diff) &&& 0x80 ≠ 0 then
                 (p1 ||| W65816_VF) % 256 else p1
     if diff &&& 0xFF00 = 0 then (p2 ||| W65816_CF) % 256 else p2).testBit 3 = P.testBit 3 := by
  simp only [_W65816_NZ, W65816_CF, W65816_VF, W65816_NF, W65816_ZF]
  split_ifs <;>
    simp only [Nat.testBit_or, Nat.testBit_and, testBit_mod256, testBit_NOT32,
      Nat.reduceShiftLeft, Nat.reduceOr] <;>
    simp only [Nat.testBit_to_div_mod, Nat.reducePow, Nat.reduceDiv,
      Nat.reduceMod, Nat.reduceLT, Nat.reduceEqDiff, decide_True, decide_False, Bool.true_and,
      Bool.and_true, Bool.false_and, Bool.and_false, Bool.or_false, Bool.false_or, Bool.not_false,
      Bool.not_true, decide_eq_true_eq]

theorem carry_in_congr (P1 P2 x y : Nat) (h : P1.testBit 0 = P2.testBit 0) :
    (if P1 &&& W65816_CF ≠ 0 then x else y) = (if P2 &&& W65816_CF ≠ 0 then x else y) := by
  have e : ∀ P : Nat, (P &&& W65816_CF ≠ 0) ↔ P.testBit 0 = true := fun P => flag_ne P 0
  by_cases h2 : P2.testBit 0 = true
  · rw [if_pos ((e P2).2 h2), if_pos ((e P1).2 (h.trans h2))]
  · rw [if_neg (fun hh => h2 ((e P2).1 hh)), if_neg (fun hh => h2 (h ▸ (e P1).1 hh))]

theorem A_congr (c1 c2 : w65816_t) (h : c1.C = c2.C) : _A c1 = _A c2 := by
  unfold _A; rw [h]

theorem bin_of (c : w65816_t) (h : c.bcd_enabled = 0 ∨ c.P &&& W65816_DF = 0) :
    ¬ (c.bcd_enabled ≠ 0 ∧ c.P &&& W65816_DF ≠ 0) := by
  rintro ⟨h1, h2⟩
  rcases h with h | h
  · exact h1 h
  · exact h2 h

/-- ADC on two states in binary mode that agree on `C` and on every bit of `P` but D. -/
theorem adc_bin_congr (c1 c2 : w65816_t) (v : Nat)
    (h1 : c1.bcd_enabled = 0 ∨ c1.P &&& W65816_DF = 0)
    (h2 : c2.bcd_enabled = 0 ∨ c2.P &&& W65816_DF = 0)
    (hC : c1.C = c2.C) (hP : ∀ i, i ≠ 3 → c1.P.testBit i = c2.P.testBit i) :
    (_w65816_adc c1 v).C = (_w65816_adc c2 v).C ∧
    (∀ i, i ≠ 3 → (_w65816_adc c1 v).P.testBit i = (_w65816_adc c2 v).P.testBit i) ∧
    (_w65816_adc c1 v).P.testBit 3 = c1.P.testBit 3 := by
  have hA := A_congr c1 c2 hC
  have hc := carry_in_congr c1.P c2.P 1 0 (hP 0 (by decide))
  refine ⟨?_, ?_, ?_⟩
  · rw [adc_bin_C c1 v (bin_of c1 h1), adc_bin_C c2 v (bin_of c2 h2), hA, hc, hC]
  · intro i hi
    rw [adc_bin_P c1 v (bin_of c1 h1), adc_bin_P c2 v (bin_of c2 h2), hA, hc]
    exact adc_P_bit c1.P c2.P _ v _ i (hP i hi)
  · rw [adc_bin_P c1 v (bin_of c1 h1)]
    exact adc_P_bit3 c1.P _ v _

/-- SBC on two states in binary mode that agree on `C` and on every bit of `P` but D. -/
theorem sbc_bin_congr (c1 c2 : w65816_t) (v : Nat)
    (h1 : c1.bcd_enabled = 0 ∨ c1.P &&& W65816_DF = 0)
    (h2 : c2.bcd_enabled = 0 ∨ c2.P &&& W65816_DF = 0)
    (hC : c1.C = c2.C) (hP : ∀ i, i ≠ 3 → c1.P.testBit i = c2.P.testBit i) :
    (_w65816_sbc c1 v).C = (_w65816_sbc c2 v).C ∧
    (∀ i, i ≠ 3 → (_w65816_sbc c1 v).P.testBit i = (_w65816_sbc c2 v).P.testBit i) ∧
    (_w65816_sbc c1 v).P.testBit 3 = c1.P.testBit 3 := by
  have hA := A_congr c1 c2 hC
  have hc := carry_in_congr c1.P c2.P 0 1 (hP 0 (by decide))
  refine ⟨?_, ?_, ?_⟩
  · rw [sbc_bin_C c1 v (bin_of c1 h1), sbc_bin_C c2 v (bin_of c2 h2), hA, hc, hC]
  · intro i hi
    rw [sbc_bin_P c1 v (bin_of c1 h1), sbc_bin_P c2 v (bin_of c2 h2), hA, hc]
    exact sbc_P_bit c1.P c2.P _ v _ i (hP i hi)
  · rw [sbc_bin_P c1 v (bin_of c1 h1)]
    exact sbc_P_bit3 c1.P _ v _

theorem bit3_only (i : Nat) (hi : i ≠ 3) : Nat.testBit 8 i = Nat.testBit 0 i := by
  rw [show (8 : Nat) = 2 ^ 3 from rfl, Nat.testBit_two_pow, Nat.zero_testBit,
    decide_eq_false_iff_not]
  exact fun h => hi h.symm

/-- C21: a CPU initialised with `bcd_disabled = true` has `bcd_enabled = 0`, and no tick changes
`bcd_enabled`.  With `bcd_enabled = 0` the D flag has no effect on `_w65816_adc` and
`_w65816_sbc`: for every operand, a state `c1` with `bcd_enabled = 0` and a state `c2` that has
the same accumulator `C` and the same `P` apart from the D bit (bit 3), and that is itself
BCD-disabled or has D clear (binary mode), yield the same `C` (so the same A) and the same `P`
apart from the D bit, and the D bit of the result is the D bit before. -/
theorem bcd_disabled_ignores_D (c1 c2 : w65816_t) (v : Nat)
    (h1 : c1.bcd_enabled = 0) (h2 : c2.bcd_enabled = 0 ∨ c2.P &&& W65816_DF = 0)
    (hC : c1.C = c2.C) (hP : ∀ i, i ≠ 3 → c1.P.testBit i = c2.P.testBit i) :
    ((w65816_init true).1.bcd_enabled = 0 ∧
      ∀ c pins r, w65816_tick c pins = some r → r.1.bcd_enabled = c.bcd_enabled) ∧
    ((_w65816_adc c1 v).C = (_w65816_adc c2 v).C ∧
      (∀ i, i ≠ 3 → (_w65816_adc c1 v).P.testBit i = (_w65816_adc c2 v).P.testBit i) ∧
      (_w65816_adc c1 v).P.testBit 3 = c1.P.testBit 3) ∧
    ((_w65816_sbc c1 v).C = (_w65816_sbc c2 v).C ∧
      (∀ i, i ≠ 3 → (_w65816_sbc c1 v).P.testBit i = (_w65816_sbc c2 v).P.testBit i) ∧
      (_w65816_sbc c1 v).P.testBit 3 = c1.P.testBit 3) :=
  ⟨⟨rfl, tick_bcd⟩, adc_bin_congr c1 c2 v (Or.inl h1) h2 hC hP,
    sbc_bin_congr c1 c2 v (Or.inl h1) h2 hC hP⟩

theorem bcd_disabled_ignores_D_witness :
    (_w65816_adc { (w65816_init true).1 with C := 0x19, P := 0x08 } 0x28).C = 0x41 ∧
    (_w65816_adc { (w65816_init false).1 with C := 0x19, P := 0x00 } 0x28).C = 0x41 ∧
    (_w65816_adc { (w65816_init false).1 with C := 0x19, P := 0x08 } 0x28).C = 0x47 ∧
    (_w65816_adc { (w65816_init true).1 with C := 0x19, P := 0x08 } 0x28).C =
      (_w65816_adc { (w65816_init false).1 with C := 0x19, P := 0x00 } 0x28).C :=
  ⟨by decide, by decide, by decide,
    (bcd_disabled_ignores_D { (w65816_init true).1 with C := 0x19, P := 0x08 }
      { (w65816_init false).1 with C := 0x19, P := 0x00 } 0x28 rfl (Or.inr (by decide)) rfl
      bit3_only).2.1.1⟩

/-! ## Sub-cycles of SEP #, LDA d, NOP and the opcodes marked unimplemented -/

set_option linter.unusedVariables false

theorem tick_finish_X (c : w65816_t) (p : Nat) :
    (tick_finish c p).1.X =
      (if (c.emulation ||| ((if c.emulation ≠ 0 then (c.P ||| 0x20) % 256 else c.P) &&& W65816_XF)) ≠ 0
        then c.X &&& 0xFF else c.X) := by
  simp only [tick_finish]
  split_ifs <;> first | rfl | contradiction

theorem tick_finish_Y (c : w65816_t) (p : Nat) :
    (tick_finish c p).1.Y =
      (if (c.emulation ||| ((if c.emulation ≠ 0 then (c.P ||| 0x20) % 256 else c.P) &&& W65816_XF)) ≠ 0
        then c.Y &&& 0xFF else c.Y) := by
  simp only [tick_finish]
  split_ifs <;> first | rfl | contradiction

/-! ### SEP # (0xE2) -/

theorem decode_E2_0 (c : w65816_t) (p : Nat) :
    w65816_decode 0x710 c p = op_E2 0 c p := by
  simp only [w65816_decode, decode_E, Nat.reduceDiv, Nat.reduceMod]

theorem opE2_0_word (c : w65816_t) (f : PinF) :
    op_E2 0 c f.word = some ({ c with PC := (c.PC + 1) % 65536 },
      ({ f with a := c.PC, vpa := true } : PinF).word) := by
  simp only [op_E2, VPA_word, SA_word]

/-- Sync tick of SEP #: the operand byte after the opcode is addressed with VPA. -/
theorem sep_t0 (c : w65816_t) (a bank : Nat) (rw : Bool) (hb : c.brk_flags = 0)
    (hi : c.irq_pip = 0) (hn : c.nmi_pip = 0) :
    ∃ c1, w65816_tick c (qpins a 0xE2 rw true true bank).word =
        some (c1, (qpins ((c.PC + 1) % 65536) 0xE2 true true false bank).word) ∧
      c1.IR = 0x711 ∧ c1.PC = ((c.PC + 1) % 65536 + 1) % 65536 ∧ c1.C = c.C ∧
      c1.P = (if c.emulation ≠ 0 then (c.P ||| 0x20) % 256 else c.P) ∧
      c1.S = (if c.emulation ≠ 0 then 0x0100 ||| (c.S &&& 0xFF) else c.S) ∧
      c1.emulation = c.emulation ∧ c1.brk_flags = 0 ∧
      c1.X = (if (c.emulation ||| ((if c.emulation ≠ 0 then (c.P ||| 0x20) % 256 else c.P) &&& W65816_XF)) ≠ 0 then c.X &&& 0xFF else c.X) ∧
      c1.Y = (if (c.emulation ||| ((if c.emulation ≠ 0 then (c.P ||| 0x20) % 256 else c.P) &&& W65816_XF)) ≠ 0 then c.Y &&& 0xFF else c.Y) := by
  rw [tick_sync_op c a 0xE2 bank rw hb hi hn]
  have e : ((0xE2 % 256) <<< 3) % 65536 = 0x710 := by decide
  rw [e, decode_E2_0, opE2_0_word, Option.map_some', tick_finish_pair]
  exact ⟨_, rfl, tick_finish_IR _ _, tick_finish_PC _ _, tick_finish_C _ _, tick_finish_P _ _, tick_finish_S _ _, tick_finish_emulation _ _, tick_finish_brk _ _, tick_finish_X _ _, tick_finish_Y _ _⟩

theorem decode_E2_1 (c : w65816_t) (p : Nat) :
    w65816_decode 0x711 c p = op_E2 1 c p := by
  simp only [w65816_decode, decode_E, Nat.reduceDiv, Nat.reduceMod]

theorem opE2_1_word (c : w65816_t) (f : PinF) :
    op_E2 1 c f.word = some ({ c with P := (c.P ||| f.d % 256) % 256 },
      ({ f with a := c.PC } : PinF).word) := by
  simp only [op_E2, GD_word, SA_word]

/-- Sub-cycle 1 of SEP #: the bits of the operand are set in P. -/
theorem sep_t1 (c : w65816_t) (a d bank : Nat) (rw vpa vda : Bool)
    (hs : (vpa && vda) = false) (hIR : c.IR = 0x711) :
    ∃ c1, w65816_tick c (qpins a d rw vpa vda bank).word =
        some (c1, (qpins c.PC d true false false bank).word) ∧
      c1.IR = 0x712 ∧ c1.PC = c.PC ∧ c1.C = c.C ∧
      c1.P = (if c.emulation ≠ 0 then ((c.P ||| d % 256) % 256 ||| 0x20) % 256 else (c.P ||| d % 256) % 256) ∧
      c1.S = (if c.emulation ≠ 0 then 0x0100 ||| (c.S &&& 0xFF) else c.S) ∧
      c1.emulation = c.emulation ∧ c1.brk_flags = c.brk_flags ∧
      c1.X = (if (c.emulation ||| ((if c.emulation ≠ 0 then ((c.P ||| d % 256) % 256 ||| 0x20) % 256 else (c.P ||| d % 256) % 256) &&& W65816_XF)) ≠ 0 then c.X &&& 0xFF else c.X) ∧
      c1.Y = (if (c.emulation ||| ((if c.emulation ≠ 0 then ((c.P ||| d % 256) % 256 ||| 0x20) % 256 else (c.P ||| d % 256) % 256) &&& W65816_XF)) ≠ 0 then c.Y &&& 0xFF else c.Y) := by
  rw [tick_step_op c a d bank rw vpa vda hs, hIR, decode_E2_1,
    opE2_1_word, Option.map_some', tick_finish_pair]
  exact ⟨_, rfl, tick_finish_IR _ _, tick_finish_PC _ _, tick_finish_C _ _, tick_finish_P _ _, tick_finish_S _ _, tick_finish_emulation _ _, tick_finish_brk _ _, tick_finish_X _ _, tick_finish_Y _ _⟩

theorem decode_E2_2 (c : w65816_t) (p : Nat) :
    w65816_decode 0x712 c p = op_E2 2 c p := by
  simp only [w65816_decode, decode_E, Nat.reduceDiv, Nat.reduceMod]

theorem opE2_2_word (c : w65816_t) (f : PinF) :
    op_E2 2 c f.word = some (c,
      ({ f with a := c.PC, vpa := true, vda := true } : PinF).word) := by
  simp only [op_E2, FETCH_word]

/-- Sub-cycle 2 of SEP #: the next opcode fetch is issued at PC. -/
theorem sep_t2 (c : w65816_t) (a d bank : Nat) (rw vpa vda : Bool)
    (hs : (vpa && vda) = false) (hIR : c.IR = 0x712) :
    ∃ c1, w65816_tick c (qpins a d rw vpa vda bank).word =
        some (c1, (qpins c.PC d true true true bank).word) ∧
      c1.IR = 0x713 ∧ c1.PC = c.PC ∧ c1.C = c.C ∧
      c1.P = (if c.emulation ≠ 0 then (c.P ||| 0x20) % 256 else c.P) ∧
      c1.S = (if c.emulation ≠ 0 then 0x0100 ||| (c.S &&& 0xFF) else c.S) ∧
      c1.emulation = c.emulation ∧ c1.brk_flags = c.brk_flags ∧
      c1.X = (if (c.emulation ||| ((if c.emulation ≠ 0 then (c.P ||| 0x20) % 256 else c.P) &&& W65816_XF)) ≠ 0 then c.X &&& 0xFF else c.X) ∧
      c1.Y = (if (c.emulation ||| ((if c.emulation ≠ 0 then (c.P ||| 0x20) % 256 else c.P) &&& W65816_XF)) ≠ 0 then c.Y &&& 0xFF else c.Y) := by
  rw [tick_step_op c a d bank rw vpa vda hs, hIR, decode_E2_2,
    opE2_2_word, Option.map_some', tick_finish_pair]
  exact ⟨_, rfl, tick_finish_IR _ _, tick_finish_PC _ _, tick_finish_C _ _, tick_finish_P _ _, tick_finish_S _ _, tick_finish_emulation _ _, tick_finish_brk _ _, tick_finish_X _ _, tick_finish_Y _ _⟩

/-! ### LDA d (0xA5) -/

theorem decode_A5_0 (c : w65816_t) (p : Nat) :
    w65816_decode 0x528 c p = op_A5 0 c p := by
  simp only [w65816_decode, decode_A, Nat.reduceDiv, Nat.reduceMod]

theorem opA5_0_word (c : w65816_t) (f : PinF) :
    op_A5 0 c f.word = some ({ c with PC := (c.PC + 1) % 65536 },
      ({ f with a := c.PC, vpa := true } : PinF).word) := by
  simp only [op_A5, VPA_word, SA_word]

/-- Sync tick of LDA d: the operand byte after the opcode is addressed with VPA. -/
theorem ldad_t0 (c : w65816_t) (a bank : Nat) (rw : Bool) (hb : c.brk_flags = 0)
    (hi : c.irq_pip = 0) (hn : c.nmi_pip = 0) :
    ∃ c1, w65816_tick c (qpins a 0xA5 rw true true bank).word =
        some (c1, (qpins ((c.PC + 1) % 65536) 0xA5 true true false bank).word) ∧
      c1.IR = 0x529 ∧ c1.PC = ((c.PC + 1) % 65536 + 1) % 65536 ∧ c1.C = c.C ∧
      c1.P = (if c.emulation ≠ 0 then (c.P ||| 0x20) % 256 else c.P) ∧
      c1.S = (if c.emulation ≠ 0 then 0x0100 ||| (c.S &&& 0xFF) else c.S) ∧
      c1.emulation = c.emulation ∧ c1.brk_flags = 0 := by
  rw [tick_sync_op c a 0xA5 bank rw hb hi hn]
  have e : ((0xA5 % 256) <<< 3) % 65536 = 0x528 := by decide
  rw [e, decode_A5_0, opA5_0_word, Option.map_some', tick_finish_pair]
  exact ⟨_, rfl, tick_finish_IR _ _, tick_finish_PC _ _, tick_finish_C _ _, tick_finish_P _ _, tick_finish_S _ _, tick_finish_emulation _ _, tick_finish_brk _ _⟩

theorem decode_A5_1 (c : w65816_t) (p : Nat) :
    w65816_decode 0x529 c p = op_A5 1 c p := by
  simp only [w65816_decode, decode_A, Nat.reduceDiv, Nat.reduceMod]

theorem opA5_1_word (c : w65816_t) (f : PinF) :
    op_A5 1 c f.word = some (c,
      ({ f with a := f.d % 256, vda := true } : PinF).word) := by
  simp only [op_A5, VDA_word, GD_word, SA_word]

/-- Sub-cycle 1 of LDA d: the address on the pins is the operand byte, with VDA; the direct-page
register D is not read. -/
theorem ldad_t1 (c : w65816_t) (a d bank : Nat) (rw vpa vda : Bool)
    (hs : (vpa && vda) = false) (hIR : c.IR = 0x529) :
    ∃ c1, w65816_tick c (qpins a d rw vpa vda bank).word =
        some (c1, (qpins (d % 256) d true false true bank).word) ∧
      c1.IR = 0x52A ∧ c1.PC = c.PC ∧ c1.C = c.C ∧
      c1.P = (if c.emulation ≠ 0 then (c.P ||| 0x20) % 256 else c.P) ∧
      c1.S = (if c.emulation ≠ 0 then 0x0100 ||| (c.S &&& 0xFF) else c.S) ∧
      c1.emulation = c.emulation ∧ c1.brk_flags = c.brk_flags := by
  rw [tick_step_op c a d bank rw vpa vda hs, hIR, decode_A5_1,
    opA5_1_word, Option.map_some', tick_finish_pair]
  exact ⟨_, rfl, tick_finish_IR _ _, tick_finish_PC _ _, tick_finish_C _ _, tick_finish_P _ _, tick_finish_S _ _, tick_finish_emulation _ _, tick_finish_brk _ _⟩

theorem decode_A5_2 (c : w65816_t) (p : Nat) :
    w65816_decode 0x52A c p = op_A5 2 c p := by
  simp only [w65816_decode, decode_A, Nat.reduceDiv, Nat.reduceMod]

theorem opA5_2_word_a8 (c : w65816_t) (f : PinF) (ha : _a8 c = true) :
    op_A5 2 c f.word = some (_NZ (set_A c (f.d % 256)) (_A (set_A c (f.d % 256))),
      ({ f with a := c.PC, vpa := true, vda := true } : PinF).word) := by
  simp only [op_A5, GD_word, a8_set_A, ha, if_true, FETCH_word, NZ_PC, set_A_PC]

/-- Sub-cycle 2 of LDA d with an 8-bit accumulator: A is loaded from the data bus, N and Z are set
and the next opcode fetch is issued. -/
theorem ldad_t2_a8 (c : w65816_t) (a d bank : Nat) (rw vpa vda : Bool)
    (hs : (vpa && vda) = false) (hIR : c.IR = 0x52A) (ha : _a8 c = true) :
    ∃ c1, w65816_tick c (qpins a d rw vpa vda bank).word =
        some (c1, (qpins c.PC d true true true bank).word) ∧
      c1.IR = 0x52B ∧ c1.PC = c.PC ∧ c1.C = (c.C &&& 0xFF00) ||| (d % 256 &&& 0xFF) ∧
      c1.P = (if c.emulation ≠ 0 then ((_NZ (set_A c (d % 256)) (_A (set_A c (d % 256)))).P ||| 0x20) % 256 else (_NZ (set_A c (d % 256)) (_A (set_A c (d % 256)))).P) ∧
      c1.S = (if c.emulation ≠ 0 then 0x0100 ||| (c.S &&& 0xFF) else c.S) ∧
      c1.emulation = c.emulation ∧ c1.brk_flags = c.brk_flags := by
  rw [tick_step_op c a d bank rw vpa vda hs, hIR, decode_A5_2,
    opA5_2_word_a8, Option.map_some', tick_finish_pair]
  · exact ⟨_, rfl, tick_finish_IR _ _, tick_finish_PC _ _, tick_finish_C _ _, tick_finish_P _ _, tick_finish_S _ _, tick_finish_emulation _ _, tick_finish_brk _ _⟩
  · exact ha

/-! ### NOP (0xEA) -/

theorem decode_EA_0 (c : w65816_t) (p : Nat) :
    w65816_decode 0x750 c p = op_EA 0 c p := by
  simp only [w65816_decode, decode_E, Nat.reduceDiv, Nat.reduceMod]

theorem opEA_0_word (c : w65816_t) (f : PinF) :
    op_EA 0 c f.word = some (c,
      ({ f with a := c.PC } : PinF).word) := by
  simp only [op_EA, SA_word]

/-- Sync tick of NOP: the opcode is decoded and PC is incremented. -/
theorem nop_t0 (c : w65816_t) (a bank : Nat) (rw : Bool) (hb : c.brk_flags = 0)
    (hi : c.irq_pip = 0) (hn : c.nmi_pip = 0) :
    ∃ c1, w65816_tick c (qpins a 0xEA rw true true bank).word =
        some (c1, (qpins ((c.PC + 1) % 65536) 0xEA true false false bank).word) ∧
      c1.IR = 0x751 ∧ c1.PC = ((c.PC + 1) % 65536) ∧ c1.C = c.C ∧
      c1.P = (if c.emulation ≠ 0 then (c.P ||| 0x20) % 256 else c.P) ∧
      c1.S = (if c.emulation ≠ 0 then 0x0100 ||| (c.S &&& 0xFF) else c.S) ∧
      c1.emulation = c.emulation ∧ c1.brk_flags = 0 := by
  rw [tick_sync_op c a 0xEA bank rw hb hi hn]
  have e : ((0xEA % 256) <<< 3) % 65536 = 0x750 := by decide
  rw [e, decode_EA_0, opEA_0_word, Option.map_some', tick_finish_pair]
  exact ⟨_, rfl, tick_finish_IR _ _, tick_finish_PC _ _, tick_finish_C _ _, tick_finish_P _ _, tick_finish_S _ _, tick_finish_emulation _ _, tick_finish_brk _ _⟩

theorem decode_EA_1 (c : w65816_t) (p : Nat) :
    w65816_decode 0x751 c p = op_EA 1 c p := by
  simp only [w65816_decode, decode_E, Nat.reduceDiv, Nat.reduceMod]

theorem opEA_1_word (c : w65816_t) (f : PinF) :
    op_EA 1 c f.word = some (c,
      ({ f with a := c.PC, vpa := true, vda := true } : PinF).word) := by
  simp only [op_EA, FETCH_word]

/-- Sub-cycle 1 of NOP: the next opcode fetch is issued at PC. -/
theorem nop_t1 (c : w65816_t) (a d bank : Nat) (rw vpa vda : Bool)
    (hs : (vpa && vda) = false) (hIR : c.IR = 0x751) :
    ∃ c1, w65816_tick c (qpins a d rw vpa vda bank).word =
        some (c1, (qpins c.PC d true true true bank).word) ∧
      c1.IR = 0x752 ∧ c1.PC = c.PC ∧ c1.C = c.C ∧
      c1.P = (if c.emulation ≠ 0 then (c.P ||| 0x20) % 256 else c.P) ∧
      c1.S = (if c.emulation ≠ 0 then 0x0100 ||| (c.S &&& 0xFF) else c.S) ∧
      c1.emulation = c.emulation ∧ c1.brk_flags = c.brk_flags := by
  rw [tick_step_op c a d bank rw vpa vda hs, hIR, decode_EA_1,
    opEA_1_word, Option.map_some', tick_finish_pair]
  exact ⟨_, rfl, tick_finish_IR _ _, tick_finish_PC _ _, tick_finish_C _ _, tick_finish_P _ _, tick_finish_S _ _, tick_finish_emulation _ _, tick_finish_brk _ _⟩

/-! ### WAI (0xCB) -/

theorem decode_CB_0 (c : w65816_t) (p : Nat) :
    w65816_decode 0x658 c p = op_CB 0 c p := by
  simp only [w65816_decode, decode_C, Nat.reduceDiv, Nat.reduceMod]

theorem opCB_0_word (c : w65816_t) (f : PinF) :
    op_CB 0 c f.word = some (c,
      ({ f with a := c.PC } : PinF).word) := by
  simp only [op_CB, SA_word]

/-- Sync tick of WAI: the opcode is decoded and PC is incremented. -/
theorem wai_t0 (c : w65816_t) (a bank : Nat) (rw : Bool) (hb : c.brk_flags = 0)
    (hi : c.irq_pip = 0) (hn : c.nmi_pip = 0) :
    ∃ c1, w65816_tick c (qpins a 0xCB rw true true bank).word =
        some (c1, (qpins ((c.PC + 1) % 65536) 0xCB true false false bank).word) ∧
      c1.IR = 0x659 ∧ c1.PC = ((c.PC + 1) % 65536) ∧ c1.C = c.C ∧
      c1.P = (if c.emulation ≠ 0 then (c.P ||| 0x20) % 256 else c.P) ∧
      c1.S = (if c.emulation ≠ 0 then 0x0100 ||| (c.S &&& 0xFF) else c.S) ∧
      c1.emulation = c.emulation ∧ c1.brk_flags = 0 := by
  rw [tick_sync_op c a 0xCB bank rw hb hi hn]
  have e : ((0xCB % 256) <<< 3) % 65536 = 0x658 := by decide
  rw [e, decode_CB_0, opCB_0_word, Option.map_some', tick_finish_pair]
  exact ⟨_, rfl, tick_finish_IR _ _, tick_finish_PC _ _, tick_finish_C _ _, tick_finish_P _ _, tick_finish_S _ _, tick_finish_emulation _ _, tick_finish_brk _ _⟩

theorem decode_CB_1 (c : w65816_t) (p : Nat) :
    w65816_decode 0x659 c p = op_CB 1 c p := by
  simp only [w65816_decode, decode_C, Nat.reduceDiv, Nat.reduceMod]

theorem opCB_1_word (c : w65816_t) (f : PinF) :
    op_CB 1 c f.word = some (c,
      ({ f with a := c.PC, vpa := true, vda := true } : PinF).word) := by
  simp only [op_CB, FETCH_word]

/-- Sub-cycle 1 of WAI: the next opcode fetch is issued at PC. -/
theorem wai_t1 (c : w65816_t) (a d bank : Nat) (rw vpa vda : Bool)
    (hs : (vpa && vda) = false) (hIR : c.IR = 0x659) :
    ∃ c1, w65816_tick c (qpins a d rw vpa vda bank).word =
        some (c1, (qpins c.PC d true true true bank).word) ∧
      c1.IR = 0x65A ∧ c1.PC = c.PC ∧ c1.C = c.C ∧
      c1.P = (if c.emulation ≠ 0 then (c.P ||| 0x20) % 256 else c.P) ∧
      c1.S = (if c.emulation ≠ 0 then 0x0100 ||| (c.S &&& 0xFF) else c.S) ∧
      c1.emulation = c.emulation ∧ c1.brk_flags = c.brk_flags := by
  rw [tick_step_op c a d bank rw vpa vda hs, hIR, decode_CB_1,
    opCB_1_word, Option.map_some', tick_finish_pair]
  exact ⟨_, rfl, tick_finish_IR _ _, tick_finish_PC _ _, tick_finish_C _ _, tick_finish_P _ _, tick_finish_S _ _, tick_finish_emulation _ _, tick_finish_brk _ _⟩

/-! ### PEI (0xD4) -/

theorem decode_D4_0 (c : w65816_t) (p : Nat) :
    w65816_decode 0x6A0 c p = op_D4 0 c p := by
  simp only [w65816_decode, decode_D, Nat.reduceDiv, Nat.reduceMod]

theorem opD4_0_word (c : w65816_t) (f : PinF) :
    op_D4 0 c f.word = some (c,
      ({ f with a := c.PC } : PinF).word) := by
  simp only [op_D4, SA_word]

/-- Sync tick of PEI: the opcode is decoded and PC is incremented. -/
theorem pei_t0 (c : w65816_t) (a bank : Nat) (rw : Bool) (hb : c.brk_flags = 0)
    (hi : c.irq_pip = 0) (hn : c.nmi_pip = 0) :
    ∃ c1, w65816_tick c (qpins a 0xD4 rw true true bank).word =
        some (c1, (qpins ((c.PC + 1) % 65536) 0xD4 true false false bank).word) ∧
      c1.IR = 0x6A1 ∧ c1.PC = ((c.PC + 1) % 65536) ∧ c1.C = c.C ∧
      c1.P = (if c.emulation ≠ 0 then (c.P ||| 0x20) % 256 else c.P) ∧
      c1.S = (if c.emulation ≠ 0 then 0x0100 ||| (c.S &&& 0xFF) else c.S) ∧
      c1.emulation = c.emulation ∧ c1.brk_flags = 0 := by
  rw [tick_sync_op c a 0xD4 bank rw hb hi hn]
  have e : ((0xD4 % 256) <<< 3) % 65536 = 0x6A0 := by decide
  rw [e, decode_D4_0, opD4_0_word, Option.map_some', tick_finish_pair]
  exact ⟨_, rfl, tick_finish_IR _ _, tick_finish_PC _ _, tick_finish_C _ _, tick_finish_P _ _, tick_finish_S _ _, tick_finish_emulation _ _, tick_finish_brk _ _⟩

theorem decode_D4_1 (c : w65816_t) (p : Nat) :
    w65816_decode 0x6A1 c p = op_D4 1 c p := by
  simp only [w65816_decode, decode_D, Nat.reduceDiv, Nat.reduceMod]

theorem opD4_1_word (c : w65816_t) (f : PinF) :
    op_D4 1 c f.word = some (c,
      ({ f with a := c.PC, vpa := true, vda := true } : PinF).word) := by
  simp only [op_D4, FETCH_word]

/-- Sub-cycle 1 of PEI: the next opcode fetch is issued at PC. -/
theorem pei_t1 (c : w65816_t) (a d bank : Nat) (rw vpa vda : Bool)
    (hs : (vpa && vda) = false) (hIR : c.IR = 0x6A1) :
    ∃ c1, w65816_tick c (qpins a d rw vpa vda bank).word =
        some (c1, (qpins c.PC d true true true bank).word) ∧
      c1.IR = 0x6A2 ∧ c1.PC = c.PC ∧ c1.C = c.C ∧
      c1.P = (if c.emulation ≠ 0 then (c.P ||| 0x20) % 256 else c.P) ∧
      c1.S = (if c.emulation ≠ 0 then 0x0100 ||| (c.S &&& 0xFF) else c.S) ∧
      c1.emulation = c.emulation ∧ c1.brk_flags = c.brk_flags := by
  rw [tick_step_op c a d bank rw vpa vda hs, hIR, decode_D4_1,
    opD4_1_word, Option.map_some', tick_finish_pair]
  exact ⟨_, rfl, tick_finish_IR _ _, tick_finish_PC _ _, tick_finish_C _ _, tick_finish_P _ _, tick_finish_S _ _, tick_finish_emulation _ _, tick_finish_brk _ _⟩

/-! ### PEA (0xF4) -/

theorem decode_F4_0 (c : w65816_t) (p : Nat) :
    w65816_decode 0x7A0 c p = op_F4 0 c p := by
  simp only [w65816_decode, decode_F, Nat.reduceDiv, Nat.reduceMod]

theorem opF4_0_word (c : w65816_t) (f : PinF) :
    op_F4 0 c f.word = some (c,
      ({ f with a := c.PC } : PinF).word) := by
  simp only [op_F4, SA_word]

/-- Sync tick of PEA: the opcode is decoded and PC is incremented. -/
theorem pea_t0 (c : w65816_t) (a bank : Nat) (rw : Bool) (hb : c.brk_flags = 0)
    (hi : c.irq_pip = 0) (hn : c.nmi_pip = 0) :
    ∃ c1, w65816_tick c (qpins a 0xF4 rw true true bank).word =
        some (c1, (qpins ((c.PC + 1) % 65536) 0xF4 true false false bank).word) ∧
      c1.IR = 0x7A1 ∧ c1.PC = ((c.PC + 1) % 65536) ∧ c1.C = c.C ∧
      c1.P = (if c.emulation ≠ 0 then (c.P ||| 0x20) % 256 else c.P) ∧
      c1.S = (if c.emulation ≠ 0 then 0x0100 ||| (c.S &&& 0xFF) else c.S) ∧
      c1.emulation = c.emulation ∧ c1.brk_flags = 0 := by
  rw [tick_sync_op c a 0xF4 bank rw hb hi hn]
  have e : ((0xF4 % 256) <<< 3) % 65536 = 0x7A0 := by decide
  rw [e, decode_F4_0, opF4_0_word, Option.map_some', tick_finish_pair]
  exact ⟨_, rfl, tick_finish_IR _ _, tick_finish_PC _ _, tick_finish_C _ _, tick_finish_P _ _, tick_finish_S _ _, tick_finish_emulation _ _, tick_finish_brk _ _⟩

theorem decode_F4_1 (c : w65816_t) (p : Nat) :
    w65816_decode 0x7A1 c p = op_F4 1 c p := by
  simp only [w65816_decode, decode_F, Nat.reduceDiv, Nat.reduceMod]

theorem opF4_1_word (c : w65816_t) (f : PinF) :
    op_F4 1 c f.word = some (c,
      ({ f with a := c.PC, vpa := true, vda := true } : PinF).word) := by
  simp only [op_F4, FETCH_word]

/-- Sub-cycle 1 of PEA: the next opcode fetch is issued at PC. -/
theorem pea_t1 (c : w65816_t) (a d bank : Nat) (rw vpa vda : Bool)
    (hs : (vpa && vda) = false) (hIR : c.IR = 0x7A1) :
    ∃ c1, w65816_tick c (qpins a d rw vpa vda bank).word =
        some (c1, (qpins c.PC d true true true bank).word) ∧
      c1.IR = 0x7A2 ∧ c1.PC = c.PC ∧ c1.C = c.C ∧
      c1.P = (if c.emulation ≠ 0 then (c.P ||| 0x20) % 256 else c.P) ∧
      c1.S = (if c.emulation ≠ 0 then 0x0100 ||| (c.S &&& 0xFF) else c.S) ∧
      c1.emulation = c.emulation ∧ c1.brk_flags = c.brk_flags := by
  rw [tick_step_op c a d bank rw vpa vda hs, hIR, decode_F4_1,
    opF4_1_word, Option.map_some', tick_finish_pair]
  exact ⟨_, rfl, tick_finish_IR _ _, tick_finish_PC _ _, tick_finish_C _ _, tick_finish_P _ _, tick_finish_S _ _, tick_finish_emulation _ _, tick_finish_brk _ _⟩

/-! ### JSL (0x22) -/

theorem decode_22_0 (c : w65816_t) (p : Nat) :
    w65816_decode 0x110 c p = op_22 0 c p := by
  simp only [w65816_decode, decode_2, Nat.reduceDiv, Nat.reduceMod]

theorem op22_0_word (c : w65816_t) (f : PinF) :
    op_22 0 c f.word = some (c,
      f.word) := by
  simp only [op_22]

/-- Sync tick of JSL: the case is empty, the pins keep the address of the opcode. -/
theorem jsl_t0 (c : w65816_t) (a bank : Nat) (rw : Bool) (hb : c.brk_flags = 0)
    (hi : c.irq_pip = 0) (hn : c.nmi_pip = 0) :
    ∃ c1, w65816_tick c (qpins a 0x22 rw true true bank).word =
        some (c1, (qpins a 0x22 true false false bank).word) ∧
      c1.IR = 0x111 ∧ c1.PC = ((c.PC + 1) % 65536) ∧ c1.C = c.C ∧
      c1.P = (if c.emulation ≠ 0 then (c.P ||| 0x20) % 256 else c.P) ∧
      c1.S = (if c.emulation ≠ 0 then 0x0100 ||| (c.S &&& 0xFF) else c.S) ∧
      c1.emulation = c.emulation ∧ c1.brk_flags = 0 := by
  rw [tick_sync_op c a 0x22 bank rw hb hi hn]
  have e : ((0x22 % 256) <<< 3) % 65536 = 0x110 := by decide
  rw [e, decode_22_0, op22_0_word, Option.map_some', tick_finish_pair]
  exact ⟨_, rfl, tick_finish_IR _ _, tick_finish_PC _ _, tick_finish_C _ _, tick_finish_P _ _, tick_finish_S _ _, tick_finish_emulation _ _, tick_finish_brk _ _⟩

theorem decode_22_1 (c : w65816_t) (p : Nat) :
    w65816_decode 0x111 c p = op_22 1 c p := by
  simp only [w65816_decode, decode_2, Nat.reduceDiv, Nat.reduceMod]

theorem op22_1_word (c : w65816_t) (f : PinF) :
    op_22 1 c f.word = some (c,
      f.word) := by
  simp only [op_22]

/-- Sub-cycle 1 of JSL: the case is empty, the pins keep their address. -/
theorem jsl_t1 (c : w65816_t) (a d bank : Nat) (rw vpa vda : Bool)
    (hs : (vpa && vda) = false) (hIR : c.IR = 0x111) :
    ∃ c1, w65816_tick c (qpins a d rw vpa vda bank).word =
        some (c1, (qpins a d true false false bank).word) ∧
      c1.IR = 0x112 ∧ c1.PC = c.PC ∧ c1.C = c.C ∧
      c1.P = (if c.emulation ≠ 0 then (c.P ||| 0x20) % 256 else c.P) ∧
      c1.S = (if c.emulation ≠ 0 then 0x0100 ||| (c.S &&& 0xFF) else c.S) ∧
      c1.emulation = c.emulation ∧ c1.brk_flags = c.brk_flags := by
  rw [tick_step_op c a d bank rw vpa vda hs, hIR, decode_22_1,
    op22_1_word, Option.map_some', tick_finish_pair]
  exact ⟨_, rfl, tick_finish_IR _ _, tick_finish_PC _ _, tick_finish_C _ _, tick_finish_P _ _, tick_finish_S _ _, tick_finish_emulation _ _, tick_finish_brk _ _⟩

theorem decode_22_2 (c : w65816_t) (p : Nat) :
    w65816_decode 0x112 c p = op_22 2 c p := by
  simp only [w65816_decode, decode_2, Nat.reduceDiv, Nat.reduceMod]

theorem op22_2_word (c : w65816_t) (f : PinF) :
    op_22 2 c f.word = some (c,
      ({ f with a := c.PC, vpa := true, vda := true } : PinF).word) := by
  simp only [op_22, FETCH_word]

/-- Sub-cycle 2 of JSL: the next opcode fetch is issued at PC. -/
theorem jsl_t2 (c : w65816_t) (a d bank : Nat) (rw vpa vda : Bool)
    (hs : (vpa && vda) = false) (hIR : c.IR = 0x112) :
    ∃ c1, w65816_tick c (qpins a d rw vpa vda bank).word =
        some (c1, (qpins c.PC d true true true bank).word) ∧
      c1.IR = 0x113 ∧ c1.PC = c.PC ∧ c1.C = c.C ∧
      c1.P = (if c.emulation ≠ 0 then (c.P ||| 0x20) % 256 else c.P) ∧
      c1.S = (if c.emulation ≠ 0 then 0x0100 ||| (c.S &&& 0xFF) else c.S) ∧
      c1.emulation = c.emulation ∧ c1.brk_flags = c.brk_flags := by
  rw [tick_step_op c a d bank rw vpa vda hs, hIR, decode_22_2,
    op22_2_word, Option.map_some', tick_finish_pair]
  exact ⟨_, rfl, tick_finish_IR _ _, tick_finish_PC _ _, tick_finish_C _ _, tick_finish_P _ _, tick_finish_S _ _, tick_finish_emulation _ _, tick_finish_brk _ _⟩

/-! ### PER (0x62) -/

theorem decode_62_0 (c : w65816_t) (p : Nat) :
    w65816_decode 0x310 c p = op_62 0 c p := by
  simp only [w65816_decode, decode_6, Nat.reduceDiv, Nat.reduceMod]

theorem op62_0_word (c : w65816_t) (f : PinF) :
    op_62 0 c f.word = some (c,
      ({ f with a := c.PC } : PinF).word) := by
  simp only [op_62, SA_word]

/-- Sync tick of PER: the opcode is decoded and PC is incremented. -/
theorem per_t0 (c : w65816_t) (a bank : Nat) (rw : Bool) (hb : c.brk_flags = 0)
    (hi : c.irq_pip = 0) (hn : c.nmi_pip = 0) :
    ∃ c1, w65816_tick c (qpins a 0x62 rw true true bank).word =
        some (c1, (qpins ((c.PC + 1) % 65536) 0x62 true false false bank).word) ∧
      c1.IR = 0x311 ∧ c1.PC = ((c.PC + 1) % 65536) ∧ c1.C = c.C ∧
      c1.P = (if c.emulation ≠ 0 then (c.P ||| 0x20) % 256 else c.P) ∧
      c1.S = (if c.emulation ≠ 0 then 0x0100 ||| (c.S &&& 0xFF) else c.S) ∧
      c1.emulation = c.emulation ∧ c1.brk_flags = 0 := by
  rw [tick_sync_op c a 0x62 bank rw hb hi hn]
  have e : ((0x62 % 256) <<< 3) % 65536 = 0x310 := by decide
  rw [e, decode_62_0, op62_0_word, Option.map_some', tick_finish_pair]
  exact ⟨_, rfl, tick_finish_IR _ _, tick_finish_PC _ _, tick_finish_C _ _, tick_finish_P _ _, tick_finish_S _ _, tick_finish_emulation _ _, tick_finish_brk _ _⟩

theorem decode_62_1 (c : w65816_t) (p : Nat) :
    w65816_decode 0x311 c p = op_62 1 c p := by
  simp only [w65816_decode, decode_6, Nat.reduceDiv, Nat.reduceMod]

theorem op62_1_word (c : w65816_t) (f : PinF) :
    op_62 1 c f.word = some (c,
      f.word) := by
  simp only [op_62]

/-- Sub-cycle 1 of PER: the case is empty, the pins keep their address. -/
theorem per_t1 (c : w65816_t) (a d bank : Nat) (rw vpa vda : Bool)
    (hs : (vpa && vda) = false) (hIR : c.IR = 0x311) :
    ∃ c1, w65816_tick c (qpins a d rw vpa vda bank).word =
        some (c1, (qpins a d true false false bank).word) ∧
      c1.IR = 0x312 ∧ c1.PC = c.PC ∧ c1.C = c.C ∧
      c1.P = (if c.emulation ≠ 0 then (c.P ||| 0x20) % 256 else c.P) ∧
      c1.S = (if c.emulation ≠ 0 then 0x0100 ||| (c.S &&& 0xFF) else c.S) ∧
      c1.emulation = c.emulation ∧ c1.brk_flags = c.brk_flags := by
  rw [tick_step_op c a d bank rw vpa vda hs, hIR, decode_62_1,
    op62_1_word, Option.map_some', tick_finish_pair]
  exact ⟨_, rfl, tick_finish_IR _ _, tick_finish_PC _ _, tick_finish_C _ _, tick_finish_P _ _, tick_finish_S _ _, tick_finish_emulation _ _, tick_finish_brk _ _⟩

theorem decode_62_2 (c : w65816_t) (p : Nat) :
    w65816_decode 0x312 c p = op_62 2 c p := by
  simp only [w65816_decode, decode_6, Nat.reduceDiv, Nat.reduceMod]

theorem op62_2_word (c : w65816_t) (f : PinF) :
    op_62 2 c f.word = some (c,
      ({ f with a := c.PC, vpa := true, vda := true } : PinF).word) := by
  simp only [op_62, FETCH_word]

/-- Sub-cycle 2 of PER: the next opcode fetch is issued at PC. -/
theorem per_t2 (c : w65816_t) (a d bank : Nat) (rw vpa vda : Bool)
    (hs : (vpa && vda) = false) (hIR : c.IR = 0x312) :
    ∃ c1, w65816_tick c (qpins a d rw vpa vda bank).word =
        some (c1, (qpins c.PC d true true true bank).word) ∧
      c1.IR = 0x313 ∧ c1.PC = c.PC ∧ c1.C = c.C ∧
      c1.P = (if c.emulation ≠ 0 then (c.P ||| 0x20) % 256 else c.P) ∧
      c1.S = (if c.emulation ≠ 0 then 0x0100 ||| (c.S &&& 0xFF) else c.S) ∧
      c1.emulation = c.emulation ∧ c1.brk_flags = c.brk_flags := by
  rw [tick_step_op c a d bank rw vpa vda hs, hIR, decode_62_2,
    op62_2_word, Option.map_some', tick_finish_pair]
  exact ⟨_, rfl, tick_finish_IR _ _, tick_finish_PC _ _, tick_finish_C _ _, tick_finish_P _ _, tick_finish_S _ _, tick_finish_emulation _ _, tick_finish_brk _ _⟩

/-! ### STP (0xDB) -/

theorem decode_DB_0 (c : w65816_t) (p : Nat) :
    w65816_decode 0x6D8 c p = op_DB 0 c p := by
  simp only [w65816_decode, decode_D, Nat.reduceDiv, Nat.reduceMod]

theorem opDB_0_word (c : w65816_t) (f : PinF) :
    op_DB 0 c f.word = some (c,
      ({ f with a := c.PC } : PinF).word) := by
  simp only [op_DB, SA_word]

/-- Sync tick of STP: the opcode is decoded and PC is incremented. -/
theorem stp_t0 (c : w65816_t) (a bank : Nat) (rw : Bool) (hb : c.brk_flags = 0)
    (hi : c.irq_pip = 0) (hn : c.nmi_pip = 0) :
    ∃ c1, w65816_tick c (qpins a 0xDB rw true true bank).word =
        some (c1, (qpins ((c.PC + 1) % 65536) 0xDB true false false bank).word) ∧
      c1.IR = 0x6D9 ∧ c1.PC = ((c.PC + 1) % 65536) ∧ c1.C = c.C ∧
      c1.P = (if c.emulation ≠ 0 then (c.P ||| 0x20) % 256 else c.P) ∧
      c1.S = (if c.emulation ≠ 0 then 0x0100 ||| (c.S &&& 0xFF) else c.S) ∧
      c1.emulation = c.emulation ∧ c1.brk_flags = 0 := by
  rw [tick_sync_op c a 0xDB bank rw hb hi hn]
  have e : ((0xDB % 256) <<< 3) % 65536 = 0x6D8 := by decide
  rw [e, decode_DB_0, opDB_0_word, Option.map_some', tick_finish_pair]
  exact ⟨_, rfl, tick_finish_IR _ _, tick_finish_PC _ _, tick_finish_C _ _, tick_finish_P _ _, tick_finish_S _ _, tick_finish_emulation _ _, tick_finish_brk _ _⟩

theorem decode_DB_1 (c : w65816_t) (p : Nat) :
    w65816_decode 0x6D9 c p = op_DB 1 c p := by
  simp only [w65816_decode, decode_D, Nat.reduceDiv, Nat.reduceMod]

theorem opDB_1_word (c : w65816_t) (f : PinF) :
    op_DB 1 c f.word = some (c,
      f.word) := by
  simp only [op_DB]

/-- Sub-cycle 1 of STP: the case is empty, the pins keep their address. -/
theorem stp_t1 (c : w65816_t) (a d bank : Nat) (rw vpa vda : Bool)
    (hs : (vpa && vda) = false) (hIR : c.IR = 0x6D9) :
    ∃ c1, w65816_tick c (qpins a d rw vpa vda bank).word =
        some (c1, (qpins a d true false false bank).word) ∧
      c1.IR = 0x6DA ∧ c1.PC = c.PC ∧ c1.C = c.C ∧
      c1.P = (if c.emulation ≠ 0 then (c.P ||| 0x20) % 256 else c.P) ∧
      c1.S = (if c.emulation ≠ 0 then 0x0100 ||| (c.S &&& 0xFF) else c.S) ∧
      c1.emulation = c.emulation ∧ c1.brk_flags = c.brk_flags := by
  rw [tick_step_op c a d bank rw vpa vda hs, hIR, decode_DB_1,
    opDB_1_word, Option.map_some', tick_finish_pair]
  exact ⟨_, rfl, tick_finish_IR _ _, tick_finish_PC _ _, tick_finish_C _ _, tick_finish_P _ _, tick_finish_S _ _, tick_finish_emulation _ _, tick_finish_brk _ _⟩

theorem decode_DB_2 (c : w65816_t) (p : Nat) :
    w65816_decode 0x6DA c p = op_DB 2 c p := by
  simp only [w65816_decode, decode_D, Nat.reduceDiv, Nat.reduceMod]

theorem opDB_2_word (c : w65816_t) (f : PinF) :
    op_DB 2 c f.word = some (c,
      ({ f with a := c.PC, vpa := true, vda := true } : PinF).word) := by
  simp only [op_DB, FETCH_word]

/-- Sub-cycle 2 of STP: the next opcode fetch is issued at PC. -/
theorem stp_t2 (c : w65816_t) (a d bank : Nat) (rw vpa vda : Bool)
    (hs : (vpa && vda) = false) (hIR : c.IR = 0x6DA) :
    ∃ c1, w65816_tick c (qpins a d rw vpa vda bank).word =
        some (c1, (qpins c.PC d true true true bank).word) ∧
      c1.IR = 0x6DB ∧ c1.PC = c.PC ∧ c1.C = c.C ∧
      c1.P = (if c.emulation ≠ 0 then (c.P ||| 0x20) % 256 else c.P) ∧
      c1.S = (if c.emulation ≠ 0 then 0x0100 ||| (c.S &&& 0xFF) else c.S) ∧
      c1.emulation = c.emulation ∧ c1.brk_flags = c.brk_flags := by
  rw [tick_step_op c a d bank rw vpa vda hs, hIR, decode_DB_2,
    opDB_2_word, Option.map_some', tick_finish_pair]
  exact ⟨_, rfl, tick_finish_IR _ _, tick_finish_PC _ _, tick_finish_C _ _, tick_finish_P _ _, tick_finish_S _ _, tick_finish_emulation _ _, tick_finish_brk _ _⟩

/-! ### BRL (0x82) -/

theorem decode_82_0 (c : w65816_t) (p : Nat) :
    w65816_decode 0x410 c p = op_82 0 c p := by
  simp only [w65816_decode, decode_8, Nat.reduceDiv, Nat.reduceMod]

theorem op82_0_word (c : w65816_t) (f : PinF) :
    op_82 0 c f.word = some (c,
      ({ f with a := c.PC, vpa := true, vda := true } : PinF).word) := by
  simp only [op_82, FETCH_word]

/-- Sync tick of BRL: the next opcode fetch is issued at once. -/
theorem brl_t0 (c : w65816_t) (a bank : Nat) (rw : Bool) (hb : c.brk_flags = 0)
    (hi : c.irq_pip = 0) (hn : c.nmi_pip = 0) :
    ∃ c1, w65816_tick c (qpins a 0x82 rw true true bank).word =
        some (c1, (qpins ((c.PC + 1) % 65536) 0x82 true true true bank).word) ∧
      c1.IR = 0x411 ∧ c1.PC = ((c.PC + 1) % 65536) ∧ c1.C = c.C ∧
      c1.P = (if c.emulation ≠ 0 then (c.P ||| 0x20) % 256 else c.P) ∧
      c1.S = (if c.emulation ≠ 0 then 0x0100 ||| (c.S &&& 0xFF) else c.S) ∧
      c1.emulation = c.emulation ∧ c1.brk_flags = 0 := by
  rw [tick_sync_op c a 0x82 bank rw hb hi hn]
  have e : ((0x82 % 256) <<< 3) % 65536 = 0x410 := by decide
  rw [e, decode_82_0, op82_0_word, Option.map_some', tick_finish_pair]
  exact ⟨_, rfl, tick_finish_IR _ _, tick_finish_PC _ _, tick_finish_C _ _, tick_finish_P _ _, tick_finish_S _ _, tick_finish_emulation _ _, tick_finish_brk _ _⟩

/-! ### JML (0xDC) -/

theorem decode_DC_0 (c : w65816_t) (p : Nat) :
    w65816_decode 0x6E0 c p = op_DC 0 c p := by
  simp only [w65816_decode, decode_D, Nat.reduceDiv, Nat.reduceMod]

theorem opDC_0_word (c : w65816_t) (f : PinF) :
    op_DC 0 c f.word = some (c,
      ({ f with a := c.PC, vpa := true, vda := true } : PinF).word) := by
  simp only [op_DC, FETCH_word]

/-- Sync tick of JML: the next opcode fetch is issued at once. -/
theorem jml_t0 (c : w65816_t) (a bank : Nat) (rw : Bool) (hb : c.brk_flags = 0)
    (hi : c.irq_pip = 0) (hn : c.nmi_pip = 0) :
    ∃ c1, w65816_tick c (qpins a 0xDC rw true true bank).word =
        some (c1, (qpins ((c.PC + 1) % 65536) 0xDC true true true bank).word) ∧
      c1.IR = 0x6E1 ∧ c1.PC = ((c.PC + 1) % 65536) ∧ c1.C = c.C ∧
      c1.P = (if c.emulation ≠ 0 then (c.P ||| 0x20) % 256 else c.P) ∧
      c1.S = (if c.emulation ≠ 0 then 0x0100 ||| (c.S &&& 0xFF) else c.S) ∧
      c1.emulation = c.emulation ∧ c1.brk_flags = 0 := by
  rw [tick_sync_op c a 0xDC bank rw hb hi hn]
  have e : ((0xDC % 256) <<< 3) % 65536 = 0x6E0 := by decide
  rw [e, decode_DC_0, opDC_0_word, Option.map_some', tick_finish_pair]
  exact ⟨_, rfl, tick_finish_IR _ _, tick_finish_PC _ _, tick_finish_C _ _, tick_finish_P _ _, tick_finish_S _ _, tick_finish_emulation _ _, tick_finish_brk _ _⟩

/-! ### RTL (0x6B) -/

theorem decode_6B_0 (c : w65816_t) (p : Nat) :
    w65816_decode 0x358 c p = op_6B 0 c p := by
  simp only [w65816_decode, decode_6, Nat.reduceDiv, Nat.reduceMod]

theorem op6B_0_word (c : w65816_t) (f : PinF) :
    op_6B 0 c f.word = some (c,
      ({ f with a := c.PC } : PinF).word) := by
  simp only [op_6B, SA_word]

/-- Sync tick of RTL: the opcode is decoded and PC is incremented. -/
theorem rtl_t0 (c : w65816_t) (a bank : Nat) (rw : Bool) (hb : c.brk_flags = 0)
    (hi : c.irq_pip = 0) (hn : c.nmi_pip = 0) :
    ∃ c1, w65816_tick c (qpins a 0x6B rw true true bank).word =
        some (c1, (qpins ((c.PC + 1) % 65536) 0x6B true false false bank).word) ∧
      c1.IR = 0x359 ∧ c1.PC = ((c.PC + 1) % 65536) ∧ c1.C = c.C ∧
      c1.P = (if c.emulation ≠ 0 then (c.P ||| 0x20) % 256 else c.P) ∧
      c1.S = (if c.emulation ≠ 0 then 0x0100 ||| (c.S &&& 0xFF) else c.S) ∧
      c1.emulation = c.emulation ∧ c1.brk_flags = 0 := by
  rw [tick_sync_op c a 0x6B bank rw hb hi hn]
  have e : ((0x6B % 256) <<< 3) % 65536 = 0x358 := by decide
  rw [e, decode_6B_0, op6B_0_word, Option.map_some', tick_finish_pair]
  exact ⟨_, rfl, tick_finish_IR _ _, tick_finish_PC _ _, tick_finish_C _ _, tick_finish_P _ _, tick_finish_S _ _, tick_finish_emulation _ _, tick_finish_brk _ _⟩

theorem decode_6B_1 (c : w65816_t) (p : Nat) :
    w65816_decode 0x359 c p = op_6B 1 c p := by
  simp only [w65816_decode, decode_6, Nat.reduceDiv, Nat.reduceMod]

theorem set_S_PC (c : w65816_t) (v : Nat) : (set_S c v).PC = c.PC := rfl

theorem op6B_1_word (c : w65816_t) (f : PinF) :
    op_6B 1 c f.word = some (set_S c (_S c + 1),
      ({ f with a := c.PC, vpa := true, vda := true } : PinF).word) := by
  simp only [op_6B, SA_word, FETCH_word, set_S_PC]

/-- Sub-cycle 1 of RTL: the low byte of S is incremented and the next opcode fetch is issued. -/
theorem rtl_t1 (c : w65816_t) (a d bank : Nat) (rw vpa vda : Bool)
    (hs : (vpa && vda) = false) (hIR : c.IR = 0x359) :
    ∃ c1, w65816_tick c (qpins a d rw vpa vda bank).word =
        some (c1, (qpins c.PC d true true true bank).word) ∧
      c1.IR = 0x35A ∧ c1.PC = c.PC ∧ c1.C = c.C ∧
      c1.P = (if c.emulation ≠ 0 then (c.P ||| 0x20) % 256 else c.P) ∧
      c1.S = (if c.emulation ≠ 0 then 0x0100 ||| (((c.S &&& 0xFF00) ||| ((_S c + 1) &&& 0xFF)) &&& 0xFF) else ((c.S &&& 0xFF00) ||| ((_S c + 1) &&& 0xFF))) ∧
      c1.emulation = c.emulation ∧ c1.brk_flags = c.brk_flags := by
  rw [tick_step_op c a d bank rw vpa vda hs, hIR, decode_6B_1,
    op6B_1_word, Option.map_some', tick_finish_pair]
  exact ⟨_, rfl, tick_finish_IR _ _, tick_finish_PC _ _, tick_finish_C _ _, tick_finish_P _ _, tick_finish_S _ _, tick_finish_emulation _ _, tick_finish_brk _ _⟩

/-! ## Index registers with the X flag or the emulation flag set -/

theorem or_ne_zero (a b : Nat) (h : a ≠ 0 ∨ b ≠ 0) : a ||| b ≠ 0 := by
  intro h0
  have h1 : ∀ i, (a ||| b).testBit i = false := by
    intro i; rw [h0]; exact Nat.zero_testBit i
  rcases h with h | h
  · apply h
    apply Nat.eq_of_testBit_eq
    intro i
    have := h1 i
    rw [Nat.testBit_or, Bool.or_eq_false_iff] at this
    rw [this.1, Nat.zero_testBit]
  · apply h
    apply Nat.eq_of_testBit_eq
    intro i
    have := h1 i
    rw [Nat.testBit_or, Bool.or_eq_false_iff] at this
    rw [this.2, Nat.zero_testBit]

/-- The normalisation at the bottom of the tick clears the high bytes of X and Y when it
leaves the emulation flag or the X flag set. -/
theorem tick_finish_index (c : w65816_t) (p : Nat)
    (h : (tick_finish c p).1.emulation ≠ 0 ∨ (tick_finish c p).1.P &&& W65816_XF ≠ 0) :
    (tick_finish c p).1.X = c.X &&& 0xFF ∧ (tick_finish c p).1.Y = c.Y &&& 0xFF := by
  rw [tick_finish_emulation, tick_finish_P] at h
  have hc : (c.emulation |||
      ((if c.emulation ≠ 0 then (c.P ||| 0x20) % 256 else c.P) &&& W65816_XF)) ≠ 0 :=
    or_ne_zero _ _ h
  rw [tick_finish_X, tick_finish_Y, if_pos hc, if_pos hc]
  exact ⟨rfl, rfl⟩

theorem and_FF_le (x : Nat) : x &&& 0xFF ≤ 0xFF := by
  rw [and_FF]; omega

theorem high_zero (x : Nat) : (x &&& 0xFF) &&& 0xFF00 = 0 := by
  rw [and_FF00, and_FF]; omega

theorem XF_of_or (p d : Nat) (hd : d % 256 &&& 0x10 ≠ 0) :
    (p ||| d % 256) % 256 &&& W65816_XF ≠ 0 := by
  have h4 := (flag_ne (d % 256) 4).1 hd
  apply (flag_ne _ 4).2
  rw [testBit_mod256, Nat.testBit_or, h4, Bool.or_true]
  rfl

/-- SEP # under the host loop with an operand that has bit 4 set, fetched in native mode:
three iterations; the X flag is set and X and Y keep their low bytes only. -/
theorem run_sep (n : Nat) (s0 : Sys) (c : w65816_t) (mem : Mem) (a bank : Nat) (rw : Bool)
    (h : host_run n s0 = some (Sys.mk c (qpins a 0xE2 rw true true bank).word mem))
    (hb : c.brk_flags = 0) (hi : c.irq_pip = 0) (hn : c.nmi_pip = 0) (he : c.emulation = 0)
    (hx : c.P &&& W65816_XF = 0)
    (hop : mem ((c.PC + 1) % 65536 + bank % 256 * 65536) % 256 &&& 0x10 ≠ 0) :
    ∃ c3, host_run (n + 3) s0 = some (Sys.mk c3 (qpins ((c.PC + 2) % 65536)
        (mem ((c.PC + 2) % 65536 + bank % 256 * 65536) % 256) true true true bank).word mem) ∧
      c3.emulation = 0 ∧ c3.P &&& W65816_XF ≠ 0 ∧
      c3.X = c.X &&& 0xFF ∧ c3.Y = c.Y &&& 0xFF := by
  obtain ⟨c1, t0, i1, pc1, a1, p1, s1, e1, b1, x1, y1⟩ := sep_t0 c a bank rw hb hi hn
  have r1 := host_run_step _ _ _ _ h (host_step_qread _ _ mem _ _ _ _ _ _ t0)
  obtain ⟨c2, t1, i2, pc2, a2, p2, s2, e2, b2, x2, y2⟩ :=
    sep_t1 c1 _ _ bank true true false rfl i1
  have r2 := host_run_step _ _ _ _ r1 (host_step_qread _ _ mem _ _ _ _ _ _ t1)
  obtain ⟨c3, t2, i3, pc3, a3, p3, s3, e3, b3, x3, y3⟩ :=
    sep_t2 c2 _ _ bank true false false rfl i2
  have r3 := host_run_step _ _ _ _ r2 (host_step_qread _ _ mem _ _ _ _ _ _ t2)
  rw [pc2, pc1, pc_two, Nat.mod_mod] at r3
  have he1 : c1.emulation = 0 := e1.trans he
  have he2 : c2.emulation = 0 := e2.trans he1
  have hp1 : c1.P = c.P := by rw [p1, if_neg (not_not.2 he)]
  have hx1 : c1.X = c.X := by
    rw [x1, if_neg (not_not.2 he), he, Nat.zero_or, hx, if_neg (not_not.2 rfl)]
  have hy1 : c1.Y = c.Y := by
    rw [y1, if_neg (not_not.2 he), he, Nat.zero_or, hx, if_neg (not_not.2 rfl)]
  rw [← p2] at x2 y2
  rw [if_neg (not_not.2 he1), hp1] at p2
  simp only [Nat.mod_mod] at p2
  have hf2 : c2.P &&& W65816_XF ≠ 0 := by
    rw [p2]; exact XF_of_or _ _ hop
  have hc2 : (c1.emulation ||| (c2.P &&& W65816_XF)) ≠ 0 := or_ne_zero _ _ (Or.inr hf2)
  rw [if_pos hc2, hx1] at x2
  rw [if_pos hc2, hy1] at y2
  rw [← p3] at x3 y3
  rw [if_neg (not_not.2 he2)] at p3
  have hf3 : c3.P &&& W65816_XF ≠ 0 := by rw [p3]; exact hf2
  have hc3 : (c2.emulation ||| (c3.P &&& W65816_XF)) ≠ 0 := or_ne_zero _ _ (Or.inr hf3)
  rw [if_pos hc3, x2] at x3
  rw [if_pos hc3, y2] at y3
  have idem : ∀ x : Nat, (x &&& 0xFF) &&& 0xFF = x &&& 0xFF := by
    intro x; rw [Nat.and_assoc, Nat.and_self]
  rw [idem] at x3 y3
  exact ⟨c3, r3, e3.trans he2, hf3, x3, y3⟩

/-- C22: after every tick that is not stalled by RDY (input pins without both RW and RDY), if
the emulation flag or the X flag (`P & 0x10`) is set in the state the tick returns, then
`X <= 0xFF` and `Y <= 0xFF` in that state; in particular SEP # with an operand that has bit 4
set (`SEP #$10`), fetched in native mode with 16-bit index registers and no interrupt pending,
ends after three iterations of the host loop with the X flag set and the high bytes of X and Y
zero, the low bytes kept. -/
theorem index_registers_8bit (c : w65816_t) (pins : Nat) (r : w65816_t × Nat)
    (h : w65816_tick c pins = some r)
    (hns : pins &&& (W65816_RW ||| W65816_RDY) ≠ W65816_RW ||| W65816_RDY)
    (hf : r.1.emulation ≠ 0 ∨ r.1.P &&& 0x10 ≠ 0) :
    (r.1.X ≤ 0xFF ∧ r.1.Y ≤ 0xFF) ∧
    ∀ (c0 : w65816_t) (mem : Mem) (a bank : Nat) (rw : Bool),
      c0.brk_flags = 0 → c0.irq_pip = 0 → c0.nmi_pip = 0 → c0.emulation = 0 →
      c0.P &&& 0x10 = 0 →
      mem ((c0.PC + 1) % 65536 + bank % 256 * 65536) % 256 &&& 0x10 ≠ 0 →
      ∃ s, host_run 3 (Sys.mk c0 (qpins a 0xE2 rw true true bank).word mem) = some s ∧
        sync_out s.pins = true ∧ W65816_GET_ADDR s.pins = (c0.PC + 2) % 65536 + bank % 256 * 65536 ∧
        s.cpu.emulation = 0 ∧ s.cpu.P &&& 0x10 ≠ 0 ∧
        s.cpu.X = c0.X &&& 0xFF ∧ s.cpu.Y = c0.Y &&& 0xFF ∧
        s.cpu.X &&& 0xFF00 = 0 ∧ s.cpu.Y &&& 0xFF00 = 0 := by
  constructor
  · obtain ⟨c1, p1, e⟩ := tick_unstalled c pins r hns h
    subst e
    obtain ⟨hX, hY⟩ := tick_finish_index c1 p1 hf
    rw [hX, hY]
    exact ⟨and_FF_le _, and_FF_le _⟩
  · intro c0 mem a bank rw hb hi hn he hx hop
    obtain ⟨c3, r3, e3, f3, x3, y3⟩ :=
      run_sep 0 _ c0 mem a bank rw rfl hb hi hn he hx hop
    refine ⟨_, r3, ?_, ?_, e3, f3, x3, y3, ?_, ?_⟩
    · exact (sync_out_iff _).2 ((sync_qpins _ _ _ _ _ _).2 ⟨rfl, rfl⟩)
    · show W65816_GET_ADDR (qpins _ _ _ _ _ _).word = _
      rw [GET_ADDR_word]
      show (c0.PC + 2) % 65536 % 65536 + bank % 256 * 65536 = _
      rw [Nat.mod_mod]
    · show c3.X &&& 0xFF00 = 0
      rw [x3]; exact high_zero _
    · show c3.Y &&& 0xFF00 = 0
      rw [y3]; exact high_zero _

theorem index_registers_8bit_witness :
    ∃ r, w65816_tick { (w65816_init false).1 with X := 0x1234, Y := 0x5678 }
        (w65816_init false).2 = some r ∧
      r.1.emulation ≠ 0 ∧ r.1.X = 0x34 ∧ r.1.Y = 0x78 ∧ r.1.X ≤ 0xFF ∧ r.1.Y ≤ 0xFF :=
  ⟨(w65816_tick { (w65816_init false).1 with X := 0x1234, Y := 0x5678 }
      (w65816_init false).2).get (by decide),
    (Option.some_get _).symm, by decide, by decide, by decide,
    (index_registers_8bit _ _ _ (Option.some_get _).symm (by decide) (Or.inl (by decide))).1⟩

/-! ## Opcode fetches of the decoder

Every decoder case that returns a pin word with VPA and VDA set has executed `_FETCH()` last:
the address lines A0-A15 hold `PC` and the bank lines are those of the pin word it was given.
A case without `_FETCH()` sets at most one of VPA and VDA. -/

set_option linter.unusedTactic false
set_option linter.unreachableTactic false
set_option linter.unnecessarySeqFocus false
set_option linter.unusedVariables false

theorem testBit_not_FFFF (i : Nat) :
    (NOT64 0xFFFF).testBit i = decide (16 ≤ i ∧ i < 64) := by
  have e : NOT64 0xFFFF = (2 ^ 48 - 1) <<< 16 := by decide
  rw [e, testBit_field]

theorem testBit_not_FFFFFF (i : Nat) :
    (NOT64 0xFFFFFF).testBit i = decide (24 ≤ i ∧ i < 64) := by
  have e : NOT64 0xFFFFFF = (2 ^ 40 - 1) <<< 24 := by decide
  rw [e, testBit_field]

theorem testBit_not_bank_mask (i : Nat) :
    (NOT64 0xFF00000000).testBit i = decide (i < 32 ∨ (40 ≤ i ∧ i < 64)) := by
  have e : NOT64 0xFF00000000 = ((2 ^ 32 - 1) <<< 0) ||| ((2 ^ 24 - 1) <<< 40) := by decide
  rw [e, Nat.testBit_or, testBit_field, testBit_field]
  simp

theorem testBit_not_RW (i : Nat) :
    (NOT64 W65816_RW).testBit i = decide (i < 24 ∨ (25 ≤ i ∧ i < 64)) := by
  have e : NOT64 W65816_RW = ((2 ^ 24 - 1) <<< 0) ||| ((2 ^ 39 - 1) <<< 25) := by decide
  rw [e, Nat.testBit_or, testBit_field, testBit_field]
  simp

theorem testBit_FFFFFF (i : Nat) : (0xFFFFFF : Nat).testBit i = decide (i < 24) := by
  have := testBit_field 24 0 i
  simpa using this

theorem testBit_bit (k i : Nat) : ((1 : Nat) <<< k).testBit i = decide (i = k) := by
  have := testBit_field 1 k i
  simp only [pow_one, Nat.add_one_sub_one] at this
  rw [this]
  congr 1
  apply propext
  omega

/-! ### Pin bits left alone by the pin macros -/

theorem SA_bit (p a i : Nat) (h1 : 16 ≤ i) (h2 : i < 64) :
    (_SA p a).testBit i = p.testBit i := by
  have h3 : ¬ i < 16 := by omega
  simp [_SA, Nat.testBit_or, Nat.testBit_and, testBit_not_FFFF, testBit_FFFF, h1, h2, h3]

theorem SAD_bit (p a d i : Nat) (h1 : 24 ≤ i) (h2 : i < 64) :
    (_SAD p a d).testBit i = p.testBit i := by
  have h3 : ¬ i < 16 := by omega
  have h4 : ¬ i < 24 := by omega
  simp [_SAD, Nat.testBit_or, Nat.testBit_and, testBit_not_FFFFFF, testBit_FFFF,
    testBit_data_mask, h1, h2, h3, h4]

theorem SALD_bit (p a d i : Nat) (h1 : 24 ≤ i) (h2 : i < 64) :
    (_SALD p a d).testBit i = p.testBit i := by
  have h3 : ¬ i < 16 := by omega
  have h4 : ¬ i < 24 := by omega
  simp [_SALD, Nat.testBit_or, Nat.testBit_and, testBit_not_FFFFFF, testBit_FFFF,
    testBit_data_mask, h1, h2, h3, h4]

theorem SD_bit (p d i : Nat) (h1 : 24 ≤ i) (h2 : i < 64) :
    (_SD p d).testBit i = p.testBit i := by
  have h4 : ¬ i < 24 := by omega
  simp [_SD, Nat.testBit_or, Nat.testBit_and, testBit_not_data_mask, testBit_data_mask,
    h1, h2, h4]

theorem SAL_bit (p a i : Nat) (h1 : 16 ≤ i) (h2 : i < 32) :
    (_SAL p a).testBit i = p.testBit i := by
  have h3 : ¬ i < 16 := by omega
  have h4 : ¬ 32 ≤ i := by omega
  simp [_SAL, Nat.testBit_or, Nat.testBit_and, testBit_not_addr_mask, testBit_FFFF,
    testBit_bank_mask, h1, h2, h3, h4]

theorem SB_bit (p a i : Nat) (h2 : i < 32) :
    (_SB p a).testBit i = p.testBit i := by
  have h4 : ¬ 32 ≤ i := by omega
  simp [_SB, Nat.testBit_or, Nat.testBit_and, Nat.testBit_shiftLeft, testBit_not_bank_mask,
    h2, h4]

theorem WR_bit (p i : Nat) (h1 : 25 ≤ i) (h2 : i < 64) : (_WR p).testBit i = p.testBit i := by
  rw [_WR, _OFF, Nat.testBit_and, testBit_not_RW]
  simp [h1, h2]

theorem RD_bit (p i : Nat) (h1 : i ≠ 24) : (_RD p).testBit i = p.testBit i := by
  rw [_RD, _ON, Nat.testBit_or, show W65816_RW = (1 : Nat) <<< 24 from rfl, testBit_bit]
  simp [h1]

theorem VPA_bit (p i : Nat) (h1 : i ≠ 25) : (_VPA p).testBit i = p.testBit i := by
  rw [_VPA, _ON, Nat.testBit_or, show W65816_VPA = (1 : Nat) <<< 25 from rfl, testBit_bit]
  simp [h1]

theorem VDA_bit (p i : Nat) (h1 : i ≠ 26) : (_VDA p).testBit i = p.testBit i := by
  rw [_VDA, _ON, Nat.testBit_or, show W65816_VDA = (1 : Nat) <<< 26 from rfl, testBit_bit]
  simp [h1]

theorem FETCH_bit (c : w65816_t) (p i : Nat) (h1 : 27 ≤ i) (h2 : i < 64) :
    (_FETCH c p).testBit i = p.testBit i := by
  have h3 : i ≠ 25 := by omega
  have h4 : i ≠ 26 := by omega
  have e : W65816_VPA ||| W65816_VDA = ((1 : Nat) <<< 25) ||| ((1 : Nat) <<< 26) := rfl
  rw [_FETCH, _ON, Nat.testBit_or, e, Nat.testBit_or, testBit_bit, testBit_bit,
    SA_bit p c.PC i (by omega) h2]
  simp [h3, h4]

theorem bank_testBit (p i : Nat) :
    (W65816_GET_BANK p).testBit i = (decide (i < 8) && p.testBit (32 + i)) := by
  simp only [W65816_GET_BANK, show (256 : Nat) = 2 ^ 8 from rfl, Nat.testBit_mod_two_pow,
    Nat.testBit_shiftRight, Nat.testBit_and, testBit_bank_mask]
  by_cases h : i < 8
  · have h1 : 32 ≤ 32 + i := by omega
    have h2 : 32 + i < 40 := by omega
    simp [h, h1, h2]
  · simp [h]

theorem bank_eq_of (p q : Nat) (h : ∀ i, 32 ≤ i → i < 40 → p.testBit i = q.testBit i) :
    W65816_GET_BANK p = W65816_GET_BANK q := by
  apply Nat.eq_of_testBit_eq
  intro i
  rw [bank_testBit, bank_testBit]
  by_cases h8 : i < 8
  · rw [h (32 + i) (by omega) (by omega)]
  · simp [h8]

theorem bank_SA (p a : Nat) : W65816_GET_BANK (_SA p a) = W65816_GET_BANK p :=
  bank_eq_of _ _ (fun i h1 h2 => SA_bit p a i (by omega) (by omega))
theorem bank_SAD (p a d : Nat) : W65816_GET_BANK (_SAD p a d) = W65816_GET_BANK p :=
  bank_eq_of _ _ (fun i h1 h2 => SAD_bit p a d i (by omega) (by omega))
theorem bank_SALD (p a d : Nat) : W65816_GET_BANK (_SALD p a d) = W65816_GET_BANK p :=
  bank_eq_of _ _ (fun i h1 h2 => SALD_bit p a d i (by omega) (by omega))
theorem bank_SD (p d : Nat) : W65816_GET_BANK (_SD p d) = W65816_GET_BANK p :=
  bank_eq_of _ _ (fun i h1 h2 => SD_bit p d i (by omega) (by omega))
theorem bank_WR (p : Nat) : W65816_GET_BANK (_WR p) = W65816_GET_BANK p :=
  bank_eq_of _ _ (fun i h1 h2 => WR_bit p i (by omega) (by omega))
theorem bank_RD (p : Nat) : W65816_GET_BANK (_RD p) = W65816_GET_BANK p :=
  bank_eq_of _ _ (fun i h1 h2 => RD_bit p i (by omega))
theorem bank_VPA (p : Nat) : W65816_GET_BANK (_VPA p) = W65816_GET_BANK p :=
  bank_eq_of _ _ (fun i h1 h2 => VPA_bit p i (by omega))
theorem bank_VDA (p : Nat) : W65816_GET_BANK (_VDA p) = W65816_GET_BANK p :=
  bank_eq_of _ _ (fun i h1 h2 => VDA_bit p i (by omega))
theorem bank_FETCH (c : w65816_t) (p : Nat) :
    W65816_GET_BANK (_FETCH c p) = W65816_GET_BANK p :=
  bank_eq_of _ _ (fun i h1 h2 => FETCH_bit c p i (by omega) (by omega))

theorem vpa_SA (p a : Nat) : (_SA p a).testBit 25 = p.testBit 25 := SA_bit p a 25 (by decide) (by decide)
theorem vda_SA (p a : Nat) : (_SA p a).testBit 26 = p.testBit 26 := SA_bit p a 26 (by decide) (by decide)
theorem vpa_SAD (p a d : Nat) : (_SAD p a d).testBit 25 = p.testBit 25 := SAD_bit p a d 25 (by decide) (by decide)
theorem vda_SAD (p a d : Nat) : (_SAD p a d).testBit 26 = p.testBit 26 := SAD_bit p a d 26 (by decide) (by decide)
theorem vpa_SALD (p a d : Nat) : (_SALD p a d).testBit 25 = p.testBit 25 := SALD_bit p a d 25 (by decide) (by decide)
theorem vda_SALD (p a d : Nat) : (_SALD p a d).testBit 26 = p.testBit 26 := SALD_bit p a d 26 (by decide) (by decide)
theorem vpa_SD (p d : Nat) : (_SD p d).testBit 25 = p.testBit 25 := SD_bit p d 25 (by decide) (by decide)
theorem vda_SD (p d : Nat) : (_SD p d).testBit 26 = p.testBit 26 := SD_bit p d 26 (by decide) (by decide)
theorem vpa_SAL (p a : Nat) : (_SAL p a).testBit 25 = p.testBit 25 := SAL_bit p a 25 (by decide) (by decide)
theorem vda_SAL (p a : Nat) : (_SAL p a).testBit 26 = p.testBit 26 := SAL_bit p a 26 (by decide) (by decide)
theorem vpa_SB (p a : Nat) : (_SB p a).testBit 25 = p.testBit 25 := SB_bit p a 25 (by decide)
theorem vda_SB (p a : Nat) : (_SB p a).testBit 26 = p.testBit 26 := SB_bit p a 26 (by decide)
theorem vpa_WR (p : Nat) : (_WR p).testBit 25 = p.testBit 25 := WR_bit p 25 (by decide) (by decide)
theorem vda_WR (p : Nat) : (_WR p).testBit 26 = p.testBit 26 := WR_bit p 26 (by decide) (by decide)
theorem vpa_RD (p : Nat) : (_RD p).testBit 25 = p.testBit 25 := RD_bit p 25 (by decide)
theorem vda_RD (p : Nat) : (_RD p).testBit 26 = p.testBit 26 := RD_bit p 26 (by decide)
theorem vpa_VDA (p : Nat) : (_VDA p).testBit 25 = p.testBit 25 := VDA_bit p 25 (by decide)
theorem vda_VPA (p : Nat) : (_VPA p).testBit 26 = p.testBit 26 := VPA_bit p 26 (by decide)

theorem testBit_ite (q : Prop) [Decidable q] (a b i : Nat) :
    (if q then a else b).testBit i = if q then a.testBit i else b.testBit i := by
  split_ifs <;> rfl

theorem snd_ite (q : Prop) [Decidable q] (a b : w65816_t × Nat) :
    (if q then a else b).2 = if q then a.2 else b.2 := by
  split_ifs <;> rfl

theorem sync_out_bits (p : Nat) : sync_out p = (p.testBit 25 && p.testBit 26) := by
  rw [Bool.eq_iff_iff, sync_out_iff]
  simp only [W65816_VPA, W65816_VDA, flag_ne, Bool.and_eq_true]

theorem GA_FETCH (c : w65816_t) (p : Nat) : _GA (_FETCH c p) = c.PC % 65536 := by
  apply Nat.eq_of_testBit_eq
  intro i
  have e : W65816_VPA ||| W65816_VDA = ((1 : Nat) <<< 25) ||| ((1 : Nat) <<< 26) := rfl
  simp only [_GA, _FETCH, _ON, _SA, e, show (65536 : Nat) = 2 ^ 16 from rfl,
    Nat.testBit_mod_two_pow, Nat.testBit_and, Nat.testBit_or, testBit_FFFF, testBit_not_FFFF,
    testBit_bit]
  by_cases h : i < 16
  · have h1 : ¬ 16 ≤ i := by omega
    have h2 : i ≠ 25 := by omega
    have h3 : i ≠ 26 := by omega
    simp [h, h1, h2, h3]
  · simp [h]

/-- A case that ends with `_FETCH()`. -/
theorem fk_fetch (p0 : Nat) (c : w65816_t) (p : Nat)
    (hb : W65816_GET_BANK p = W65816_GET_BANK p0) : fetch_ok p0 (c, _FETCH c p) :=
  fun _ => ⟨GA_FETCH c p, (bank_FETCH c p).trans hb⟩

/-- A case that leaves VPA clear. -/
theorem fk_vpa (p0 : Nat) (c : w65816_t) (p : Nat) (h : p.testBit 25 = false) :
    fetch_ok p0 (c, p) := by
  intro hs
  rw [sync_out_bits] at hs
  change (p.testBit 25 && p.testBit 26) = true at hs
  rw [h] at hs
  exact absurd hs (by simp)

/-- A case that leaves VDA clear. -/
theorem fk_vda (p0 : Nat) (c : w65816_t) (p : Nat) (h : p.testBit 26 = false) :
    fetch_ok p0 (c, p) := by
  intro hs
  rw [sync_out_bits] at hs
  change (p.testBit 25 && p.testBit 26) = true at hs
  rw [h] at hs
  exact absurd hs (by simp)

theorem fk_ite (q : Prop) [Decidable q] (p0 : Nat) (a b : w65816_t × Nat)
    (ha : fetch_ok p0 a) (hb : fetch_ok p0 b) : fetch_ok p0 (if q then a else b) := by
  split_ifs <;> assumption

theorem fk_ite_pair (q : Prop) [Decidable q] (p0 : Nat) (a b : w65816_t × Nat)
    (ha : fetch_ok p0 a) (hb : fetch_ok p0 b) :
    fetch_ok p0 ((if q then a else b).1, (if q then a else b).2) := by
  split_ifs <;> assumption

theorem fk_ite_pins (q : Prop) [Decidable q] (p0 : Nat) (c : w65816_t) (a b : Nat)
    (ha : fetch_ok p0 (c, a)) (hb : fetch_ok p0 (c, b)) :
    fetch_ok p0 (c, if q then a else b) := by
  split_ifs <;> assumption


theorem op_00_fetch (step : Nat) (c : w65816_t) (pins : Nat) (r : w65816_t × Nat)
    (h25 : pins.testBit 25 = false) (h26 : pins.testBit 26 = false)
    (h : op_00 step c pins = some r) : fetch_ok pins r := by
  unfold op_00 at h
  split at h
  case h_8 => exact Option.noConfusion h
  case h_1 =>
    cases h
    exact fk_vda _ _ _ (by simp only [vda_SA, vda_SAD, vda_SALD, vda_SD, vda_SAL, vda_SB, vda_WR, vda_RD, vda_VPA, testBit_ite, snd_ite, h26, ite_self])
  case h_2 | h_3 | h_4 | h_5 | h_6 =>
    cases h
    exact fk_vpa _ _ _ (by simp only [vpa_SA, vpa_SAD, vpa_SALD, vpa_SD, vpa_SAL, vpa_SB, vpa_WR, vpa_RD, vpa_VDA, testBit_ite, snd_ite, h25, ite_self])
  case h_7 =>
    cases h
    exact fk_fetch _ _ _ (by simp only [bank_SA, bank_SAD, bank_SALD, bank_SD, bank_WR, bank_RD, bank_VPA, bank_VDA])

theorem op_01_fetch (step : Nat) (c : w65816_t) (pins : Nat) (r : w65816_t × Nat)
    (h25 : pins.testBit 25 = false) (h26 : pins.testBit 26 = false)
    (h : op_01 step c pins = some r) : fetch_ok pins r := by
  unfold op_01 at h
  split at h
  case h_7 => exact Option.noConfusion h
  case h_1 =>
    cases h
    exact fk_vda _ _ _ (by simp only [vda_SA, vda_SAD, vda_SALD, vda_SD, vda_SAL, vda_SB, vda_WR, vda_RD, vda_VPA, testBit_ite, snd_ite, h26, ite_self])
  case h_2 | h_3 | h_4 | h_5 =>
    cases h
    exact fk_vpa _ _ _ (by simp only [vpa_SA, vpa_SAD, vpa_SALD, vpa_SD, vpa_SAL, vpa_SB, vpa_WR, vpa_RD, vpa_VDA, testBit_ite, snd_ite, h25, ite_self])
  case h_6 =>
    cases h
    exact fk_fetch _ _ _ (by simp only [bank_SA, bank_SAD, bank_SALD, bank_SD, bank_WR, bank_RD, bank_VPA, bank_VDA])

theorem op_02_fetch (step : Nat) (c : w65816_t) (pins : Nat) (r : w65816_t × Nat)
    (h25 : pins.testBit 25 = false) (h26 : pins.testBit 26 = false)
    (h : op_02 step c pins = some r) : fetch_ok pins r := by
  unfold op_02 at h
  split at h
  case h_9 => exact Option.noConfusion h
  case h_1 =>
    cases h
    exact fk_vda _ _ _ (by simp only [vda_SA, vda_SAD, vda_SALD, vda_SD, vda_SAL, vda_SB, vda_WR, vda_RD, vda_VPA, testBit_ite, snd_ite, h26, ite_self])
  case h_2 | h_3 | h_4 | h_5 | h_6 | h_7 =>
    cases h
    exact fk_vpa _ _ _ (by simp only [vpa_SA, vpa_SAD, vpa_SALD, vpa_SD, vpa_SAL, vpa_SB, vpa_WR, vpa_RD, vpa_VDA, testBit_ite, snd_ite, h25, ite_self])
  case h_8 =>
    cases h
    exact fk_fetch _ _ _ (by simp only [bank_SA, bank_SAD, bank_SALD, bank_SD, bank_WR, bank_RD, bank_VPA, bank_VDA])

theorem op_03_fetch (step : Nat) (c : w65816_t) (pins : Nat) (r : w65816_t × Nat)
    (h25 : pins.testBit 25 = false) (h26 : pins.testBit 26 = false)
    (h : op_03 step c pins = some r) : fetch_ok pins r := by
  unfold op_03 at h
  split at h
  case h_4 => exact Option.noConfusion h
  case h_1 | h_2 =>
    cases h
    exact fk_vpa _ _ _ (by simp only [vpa_SA, vpa_SAD, vpa_SALD, vpa_SD, vpa_SAL, vpa_SB, vpa_WR, vpa_RD, vpa_VDA, testBit_ite, snd_ite, h25, ite_self])
  case h_3 =>
    cases h
    exact fk_fetch _ _ _ (by simp only [bank_SA, bank_SAD, bank_SALD, bank_SD, bank_WR, bank_RD, bank_VPA, bank_VDA])

theorem op_04_fetch (step : Nat) (c : w65816_t) (pins : Nat) (r : w65816_t × Nat)
    (h25 : pins.testBit 25 = false) (h26 : pins.testBit 26 = false)
    (h : op_04 step c pins = some r) : fetch_ok pins r := by
  unfold op_04 at h
  split at h
  case h_6 => exact Option.noConfusion h
  case h_1 =>
    cases h
    exact fk_vda _ _ _ (by simp only [vda_SA, vda_SAD, vda_SALD, vda_SD, vda_SAL, vda_SB, vda_WR, vda_RD, vda_VPA, testBit_ite, snd_ite, h26, ite_self])
  case h_2 | h_3 | h_4 =>
    cases h
    exact fk_vpa _ _ _ (by simp only [vpa_SA, vpa_SAD, vpa_SALD, vpa_SD, vpa_SAL, vpa_SB, vpa_WR, vpa_RD, vpa_VDA, testBit_ite, snd_ite, h25, ite_self])
  case h_5 =>
    cases h
    exact fk_fetch _ _ _ (by simp only [bank_SA, bank_SAD, bank_SALD, bank_SD, bank_WR, bank_RD, bank_VPA, bank_VDA])

theorem op_05_fetch (step : Nat) (c : w65816_t) (pins : Nat) (r : w65816_t × Nat)
    (h25 : pins.testBit 25 = false) (h26 : pins.testBit 26 = false)
    (h : op_05 step c pins = some r) : fetch_ok pins r := by
  unfold op_05 at h
  split at h
  case h_4 => exact Option.noConfusion h
  case h_1 =>
    cases h
    exact fk_vda _ _ _ (by simp only [vda_SA, vda_SAD, vda_SALD, vda_SD, vda_SAL, vda_SB, vda_WR, vda_RD, vda_VPA, testBit_ite, snd_ite, h26, ite_self])
  case h_2 =>
    cases h
    exact fk_vpa _ _ _ (by simp only [vpa_SA, vpa_SAD, vpa_SALD, vpa_SD, vpa_SAL, vpa_SB, vpa_WR, vpa_RD, vpa_VDA, testBit_ite, snd_ite, h25, ite_self])
  case h_3 =>
    cases h
    exact fk_fetch _ _ _ (by simp only [bank_SA, bank_SAD, bank_SALD, bank_SD, bank_WR, bank_RD, bank_VPA, bank_VDA])

theorem op_06_fetch (step : Nat) (c : w65816_t) (pins : Nat) (r : w65816_t × Nat)
    (h25 : pins.testBit 25 = false) (h26 : pins.testBit 26 = false)
    (h : op_06 step c pins = some r) : fetch_ok pins r := by
  unfold op_06 at h
  split at h
  case h_6 => exact Option.noConfusion h
  case h_1 =>
    cases h
    exact fk_vda _ _ _ (by simp only [vda_SA, vda_SAD, vda_SALD, vda_SD, vda_SAL, vda_SB, vda_WR, vda_RD, vda_VPA, testBit_ite, snd_ite, h26, ite_self])
  case h_2 | h_3 | h_4 =>
    cases h
    exact fk_vpa _ _ _ (by simp only [vpa_SA, vpa_SAD, vpa_SALD, vpa_SD, vpa_SAL, vpa_SB, vpa_WR, vpa_RD, vpa_VDA, testBit_ite, snd_ite, h25, ite_self])
  case h_5 =>
    cases h
    exact fk_fetch _ _ _ (by simp only [bank_SA, bank_SAD, bank_SALD, bank_SD, bank_WR, bank_RD, bank_VPA, bank_VDA])

theorem op_07_fetch (step : Nat) (c : w65816_t) (pins : Nat) (r : w65816_t × Nat)
    (h25 : pins.testBit 25 = false) (h26 : pins.testBit 26 = false)
    (h : op_07 step c pins = some r) : fetch_ok pins r := by
  unfold op_07 at h
  split at h
  case h_4 => exact Option.noConfusion h
  case h_1 | h_2 =>
    cases h
    exact fk_vpa _ _ _ (by simp only [vpa_SA, vpa_SAD, vpa_SALD, vpa_SD, vpa_SAL, vpa_SB, vpa_WR, vpa_RD, vpa_VDA, testBit_ite, snd_ite, h25, ite_self])
  case h_3 =>
    cases h
    exact fk_fetch _ _ _ (by simp only [bank_SA, bank_SAD, bank_SALD, bank_SD, bank_WR, bank_RD, bank_VPA, bank_VDA])

theorem op_08_fetch (step : Nat) (c : w65816_t) (pins : Nat) (r : w65816_t × Nat)
    (h25 : pins.testBit 25 = false) (h26 : pins.testBit 26 = false)
    (h : op_08 step c pins = some r) : fetch_ok pins r := by
  unfold op_08 at h
  split at h
  case h_4 => exact Option.noConfusion h
  case h_1 | h_2 =>
    cases h
    exact fk_vpa _ _ _ (by simp only [vpa_SA, vpa_SAD, vpa_SALD, vpa_SD, vpa_SAL, vpa_SB, vpa_WR, vpa_RD, vpa_VDA, testBit_ite, snd_ite, h25, ite_self])
  case h_3 =>
    cases h
    exact fk_fetch _ _ _ (by simp only [bank_SA, bank_SAD, bank_SALD, bank_SD, bank_WR, bank_RD, bank_VPA, bank_VDA])

theorem op_09_fetch (step : Nat) (c : w65816_t) (pins : Nat) (r : w65816_t × Nat)
    (h25 : pins.testBit 25 = false) (h26 : pins.testBit 26 = false)
    (h : op_09 step c pins = some r) : fetch_ok pins r := by
  unfold op_09 at h
  split at h
  case h_3 => exact Option.noConfusion h
  case h_1 =>
    cases h
    exact fk_vda _ _ _ (by simp only [vda_SA, vda_SAD, vda_SALD, vda_SD, vda_SAL, vda_SB, vda_WR, vda_RD, vda_VPA, testBit_ite, snd_ite, h26, ite_self])
  case h_2 =>
    cases h
    exact fk_fetch _ _ _ (by simp only [bank_SA, bank_SAD, bank_SALD, bank_SD, bank_WR, bank_RD, bank_VPA, bank_VDA])

theorem op_0A_fetch (step : Nat) (c : w65816_t) (pins : Nat) (r : w65816_t × Nat)
    (h25 : pins.testBit 25 = false) (h26 : pins.testBit 26 = false)
    (h : op_0A step c pins = some r) : fetch_ok pins r := by
  unfold op_0A at h
  split at h
  case h_3 => exact Option.noConfusion h
  case h_1 =>
    cases h
    exact fk_vpa _ _ _ (by simp only [vpa_SA, vpa_SAD, vpa_SALD, vpa_SD, vpa_SAL, vpa_SB, vpa_WR, vpa_RD, vpa_VDA, testBit_ite, snd_ite, h25, ite_self])
  case h_2 =>
    cases h
    exact fk_fetch _ _ _ (by simp only [bank_SA, bank_SAD, bank_SALD, bank_SD, bank_WR, bank_RD, bank_VPA, bank_VDA])

theorem op_0B_fetch (step : Nat) (c : w65816_t) (pins : Nat) (r : w65816_t × Nat)
    (h25 : pins.testBit 25 = false) (h26 : pins.testBit 26 = false)
    (h : op_0B step c pins = some r) : fetch_ok pins r := by
  unfold op_0B at h
  split at h
  case h_5 => exact Option.noConfusion h
  case h_1 | h_2 | h_3 =>
    cases h
    exact fk_vpa _ _ _ (by simp only [vpa_SA, vpa_SAD, vpa_SALD, vpa_SD, vpa_SAL, vpa_SB, vpa_WR, vpa_RD, vpa_VDA, testBit_ite, snd_ite, h25, ite_self])
  case h_4 =>
    cases h
    exact fk_fetch _ _ _ (by simp only [bank_SA, bank_SAD, bank_SALD, bank_SD, bank_WR, bank_RD, bank_VPA, bank_VDA])

theorem op_0C_fetch (step : Nat) (c : w65816_t) (pins : Nat) (r : w65816_t × Nat)
    (h25 : pins.testBit 25 = false) (h26 : pins.testBit 26 = false)
    (h : op_0C step c pins = some r) : fetch_ok pins r := by
  unfold op_0C at h
  split at h
  case h_7 => exact Option.noConfusion h
  case h_1 | h_2 =>
    cases h
    exact fk_vda _ _ _ (by simp only [vda_SA, vda_SAD, vda_SALD, vda_SD, vda_SAL, vda_SB, vda_WR, vda_RD, vda_VPA, testBit_ite, snd_ite, h26, ite_self])
  case h_3 | h_4 | h_5 =>
    cases h
    exact fk_vpa _ _ _ (by simp only [vpa_SA, vpa_SAD, vpa_SALD, vpa_SD, vpa_SAL, vpa_SB, vpa_WR, vpa_RD, vpa_VDA, testBit_ite, snd_ite, h25, ite_self])
  case h_6 =>
    cases h
    exact fk_fetch _ _ _ (by simp only [bank_SA, bank_SAD, bank_SALD, bank_SD, bank_WR, bank_RD, bank_VPA, bank_VDA])

theorem op_0D_fetch (step : Nat) (c : w65816_t) (pins : Nat) (r : w65816_t × Nat)
    (h25 : pins.testBit 25 = false) (h26 : pins.testBit 26 = false)
    (h : op_0D step c pins = some r) : fetch_ok pins r := by
  unfold op_0D at h
  split at h
  case h_5 => exact Option.noConfusion h
  case h_1 | h_2 =>
    cases h
    exact fk_vda _ _ _ (by simp only [vda_SA, vda_SAD, vda_SALD, vda_SD, vda_SAL, vda_SB, vda_WR, vda_RD, vda_VPA, testBit_ite, snd_ite, h26, ite_self])
  case h_3 =>
    cases h
    exact fk_vpa _ _ _ (by simp only [vpa_SA, vpa_SAD, vpa_SALD, vpa_SD, vpa_SAL, vpa_SB, vpa_WR, vpa_RD, vpa_VDA, testBit_ite, snd_ite, h25, ite_self])
  case h_4 =>
    cases h
    exact fk_fetch _ _ _ (by simp only [bank_SA, bank_SAD, bank_SALD, bank_SD, bank_WR, bank_RD, bank_VPA, bank_VDA])

theorem op_0E_fetch (step : Nat) (c : w65816_t) (pins : Nat) (r : w65816_t × Nat)
    (h25 : pins.testBit 25 = false) (h26 : pins.testBit 26 = false)
    (h : op_0E step c pins = some r) : fetch_ok pins r := by
  unfold op_0E at h
  split at h
  case h_7 => exact Option.noConfusion h
  case h_1 | h_2 =>
    cases h
    exact fk_vda _ _ _ (by simp only [vda_SA, vda_SAD, vda_SALD, vda_SD, vda_SAL, vda_SB, vda_WR, vda_RD, vda_VPA, testBit_ite, snd_ite, h26, ite_self])
  case h_3 | h_4 | h_5 =>
    cases h
    exact fk_vpa _ _ _ (by simp only [vpa_SA, vpa_SAD, vpa_SALD, vpa_SD, vpa_SAL, vpa_SB, vpa_WR, vpa_RD, vpa_VDA, testBit_ite, snd_ite, h25, ite_self])
  case h_6 =>
    cases h
    exact fk_fetch _ _ _ (by simp only [bank_SA, bank_SAD, bank_SALD, bank_SD, bank_WR, bank_RD, bank_VPA, bank_VDA])

theorem op_0F_fetch (step : Nat) (c : w65816_t) (pins : Nat) (r : w65816_t × Nat)
    (h25 : pins.testBit 25 = false) (h26 : pins.testBit 26 = false)
    (h : op_0F step c pins = some r) : fetch_ok pins r := by
  unfold op_0F at h
  split at h
  case h_4 => exact Option.noConfusion h
  case h_1 | h_2 =>
    cases h
    exact fk_vpa _ _ _ (by simp only [vpa_SA, vpa_SAD, vpa_SALD, vpa_SD, vpa_SAL, vpa_SB, vpa_WR, vpa_RD, vpa_VDA, testBit_ite, snd_ite, h25, ite_self])
  case h_3 =>
    cases h
    exact fk_fetch _ _ _ (by simp only [bank_SA, bank_SAD, bank_SALD, bank_SD, bank_WR, bank_RD, bank_VPA, bank_VDA])

theorem op_10_fetch (step : Nat) (c : w65816_t) (pins : Nat) (r : w65816_t × Nat)
    (h25 : pins.testBit 25 = false) (h26 : pins.testBit 26 = false)
    (h : op_10 step c pins = some r) : fetch_ok pins r := by
  unfold op_10 at h
  split at h
  case h_5 => exact Option.noConfusion h
  case h_1 =>
    cases h
    exact fk_vda _ _ _ (by simp only [vda_SA, vda_SAD, vda_SALD, vda_SD, vda_SAL, vda_SB, vda_WR, vda_RD, vda_VPA, testBit_ite, snd_ite, h26, ite_self])
  case h_2 | h_3 =>
    cases h
    repeat' first
      | (refine fk_fetch _ _ _ ?_; simp only [bank_SA, bank_SAD, bank_SALD, bank_SD, bank_WR, bank_RD, bank_VPA, bank_VDA]; done)
      | (refine fk_vpa _ _ _ ?_; simp only [vpa_SA, vpa_SAD, vpa_SALD, vpa_SD, vpa_SAL, vpa_SB, vpa_WR, vpa_RD, vpa_VDA, testBit_ite, snd_ite, h25, ite_self]; done)
      | (refine fk_vda _ _ _ ?_; simp only [vda_SA, vda_SAD, vda_SALD, vda_SD, vda_SAL, vda_SB, vda_WR, vda_RD, vda_VPA, testBit_ite, snd_ite, h26, ite_self]; done)
      | apply fk_ite_pair
      | apply fk_ite_pins
      | apply fk_ite
  case h_4 =>
    cases h
    exact fk_fetch _ _ _ (by simp only [bank_SA, bank_SAD, bank_SALD, bank_SD, bank_WR, bank_RD, bank_VPA, bank_VDA])

theorem op_11_fetch (step : Nat) (c : w65816_t) (pins : Nat) (r : w65816_t × Nat)
    (h25 : pins.testBit 25 = false) (h26 : pins.testBit 26 = false)
    (h : op_11 step c pins = some r) : fetch_ok pins r := by
  unfold op_11 at h
  split at h
  case h_7 => exact Option.noConfusion h
  case h_1 =>
    cases h
    exact fk_vda _ _ _ (by simp only [vda_SA, vda_SAD, vda_SALD, vda_SD, vda_SAL, vda_SB, vda_WR, vda_RD, vda_VPA, testBit_ite, snd_ite, h26, ite_self])
  case h_2 | h_3 | h_4 | h_5 =>
    cases h
    exact fk_vpa _ _ _ (by simp only [vpa_SA, vpa_SAD, vpa_SALD, vpa_SD, vpa_SAL, vpa_SB, vpa_WR, vpa_RD, vpa_VDA, testBit_ite, snd_ite, h25, ite_self])
  case h_6 =>
    cases h
    exact fk_fetch _ _ _ (by simp only [bank_SA, bank_SAD, bank_SALD, bank_SD, bank_WR, bank_RD, bank_VPA, bank_VDA])

theorem op_12_fetch (step : Nat) (c : w65816_t) (pins : Nat) (r : w65816_t × Nat)
    (h25 : pins.testBit 25 = false) (h26 : pins.testBit 26 = false)
    (h : op_12 step c pins = some r) : fetch_ok pins r := by
  unfold op_12 at h
  split at h
  case h_4 => exact Option.noConfusion h
  case h_1 | h_2 =>
    cases h
    exact fk_vpa _ _ _ (by simp only [vpa_SA, vpa_SAD, vpa_SALD, vpa_SD, vpa_SAL, vpa_SB, vpa_WR, vpa_RD, vpa_VDA, testBit_ite, snd_ite, h25, ite_self])
  case h_3 =>
    cases h
    exact fk_fetch _ _ _ (by simp only [bank_SA, bank_SAD, bank_SALD, bank_SD, bank_WR, bank_RD, bank_VPA, bank_VDA])

theorem op_13_fetch (step : Nat) (c : w65816_t) (pins : Nat) (r : w65816_t × Nat)
    (h25 : pins.testBit 25 = false) (h26 : pins.testBit 26 = false)
    (h : op_13 step c pins = some r) : fetch_ok pins r := by
  unfold op_13 at h
  split at h
  case h_4 => exact Option.noConfusion h
  case h_1 | h_2 =>
    cases h
    exact fk_vpa _ _ _ (by simp only [vpa_SA, vpa_SAD, vpa_SALD, vpa_SD, vpa_SAL, vpa_SB, vpa_WR, vpa_RD, vpa_VDA, testBit_ite, snd_ite, h25, ite_self])
  case h_3 =>
    cases h
    exact fk_fetch _ _ _ (by simp only [bank_SA, bank_SAD, bank_SALD, bank_SD, bank_WR, bank_RD, bank_VPA, bank_VDA])

theorem op_14_fetch (step : Nat) (c : w65816_t) (pins : Nat) (r : w65816_t × Nat)
    (h25 : pins.testBit 25 = false) (h26 : pins.testBit 26 = false)
    (h : op_14 step c pins = some r) : fetch_ok pins r := by
  unfold op_14 at h
  split at h
  case h_6 => exact Option.noConfusion h
  case h_1 =>
    cases h
    exact fk_vda _ _ _ (by simp only [vda_SA, vda_SAD, vda_SALD, vda_SD, vda_SAL, vda_SB, vda_WR, vda_RD, vda_VPA, testBit_ite, snd_ite, h26, ite_self])
  case h_2 | h_3 | h_4 =>
    cases h
    exact fk_vpa _ _ _ (by simp only [vpa_SA, vpa_SAD, vpa_SALD, vpa_SD, vpa_SAL, vpa_SB, vpa_WR, vpa_RD, vpa_VDA, testBit_ite, snd_ite, h25, ite_self])
  case h_5 =>
    cases h
    exact fk_fetch _ _ _ (by simp only [bank_SA, bank_SAD, bank_SALD, bank_SD, bank_WR, bank_RD, bank_VPA, bank_VDA])

theorem op_15_fetch (step : Nat) (c : w65816_t) (pins : Nat) (r : w65816_t × Nat)
    (h25 : pins.testBit 25 = false) (h26 : pins.testBit 26 = false)
    (h : op_15 step c pins = some r) : fetch_ok pins r := by
  unfold op_15 at h
  split at h
  case h_5 => exact Option.noConfusion h
  case h_1 =>
    cases h
    exact fk_vda _ _ _ (by simp only [vda_SA, vda_SAD, vda_SALD, vda_SD, vda_SAL, vda_SB, vda_WR, vda_RD, vda_VPA, testBit_ite, snd_ite, h26, ite_self])
  case h_2 | h_3 =>
    cases h
    exact fk_vpa _ _ _ (by simp only [vpa_SA, vpa_SAD, vpa_SALD, vpa_SD, vpa_SAL, vpa_SB, vpa_WR, vpa_RD, vpa_VDA, testBit_ite, snd_ite, h25, ite_self])
  case h_4 =>
    cases h
    exact fk_fetch _ _ _ (by simp only [bank_SA, bank_SAD, bank_SALD, bank_SD, bank_WR, bank_RD, bank_VPA, bank_VDA])

theorem op_16_fetch (step : Nat) (c : w65816_t) (pins : Nat) (r : w65816_t × Nat)
    (h25 : pins.testBit 25 = false) (h26 : pins.testBit 26 = false)
    (h : op_16 step c pins = some r) : fetch_ok pins r := by
  unfold op_16 at h
  split at h
  case h_7 => exact Option.noConfusion h
  case h_1 =>
    cases h
    exact fk_vda _ _ _ (by simp only [vda_SA, vda_SAD, vda_SALD, vda_SD, vda_SAL, vda_SB, vda_WR, vda_RD, vda_VPA, testBit_ite, snd_ite, h26, ite_self])
  case h_2 | h_3 | h_4 | h_5 =>
    cases h
    exact fk_vpa _ _ _ (by simp only [vpa_SA, vpa_SAD, vpa_SALD, vpa_SD, vpa_SAL, vpa_SB, vpa_WR, vpa_RD, vpa_VDA, testBit_ite, snd_ite, h25, ite_self])
  case h_6 =>
    cases h
    exact fk_fetch _ _ _ (by simp only [bank_SA, bank_SAD, bank_SALD, bank_SD, bank_WR, bank_RD, bank_VPA, bank_VDA])

theorem op_17_fetch (step : Nat) (c : w65816_t) (pins : Nat) (r : w65816_t × Nat)
    (h25 : pins.testBit 25 = false) (h26 : pins.testBit 26 = false)
    (h : op_17 step c pins = some r) : fetch_ok pins r := by
  unfold op_17 at h
  split at h
  case h_4 => exact Option.noConfusion h
  case h_1 | h_2 =>
    cases h
    exact fk_vpa _ _ _ (by simp only [vpa_SA, vpa_SAD, vpa_SALD, vpa_SD, vpa_SAL, vpa_SB, vpa_WR, vpa_RD, vpa_VDA, testBit_ite, snd_ite, h25, ite_self])
  case h_3 =>
    cases h
    exact fk_fetch _ _ _ (by simp only [bank_SA, bank_SAD, bank_SALD, bank_SD, bank_WR, bank_RD, bank_VPA, bank_VDA])

theorem op_18_fetch (step : Nat) (c : w65816_t) (pins : Nat) (r : w65816_t × Nat)
    (h25 : pins.testBit 25 = false) (h26 : pins.testBit 26 = false)
    (h : op_18 step c pins = some r) : fetch_ok pins r := by
  unfold op_18 at h
  split at h
  case h_3 => exact Option.noConfusion h
  case h_1 =>
    cases h
    exact fk_vpa _ _ _ (by simp only [vpa_SA, vpa_SAD, vpa_SALD, vpa_SD, vpa_SAL, vpa_SB, vpa_WR, vpa_RD, vpa_VDA, testBit_ite, snd_ite, h25, ite_self])
  case h_2 =>
    cases h
    exact fk_fetch _ _ _ (by simp only [bank_SA, bank_SAD, bank_SALD, bank_SD, bank_WR, bank_RD, bank_VPA, bank_VDA])

theorem op_19_fetch (step : Nat) (c : w65816_t) (pins : Nat) (r : w65816_t × Nat)
    (h25 : pins.testBit 25 = false) (h26 : pins.testBit 26 = false)
    (h : op_19 step c pins = some r) : fetch_ok pins r := by
  unfold op_19 at h
  split at h
  case h_6 => exact Option.noConfusion h
  case h_1 | h_2 =>
    cases h
    exact fk_vda _ _ _ (by simp only [vda_SA, vda_SAD, vda_SALD, vda_SD, vda_SAL, vda_SB, vda_WR, vda_RD, vda_VPA, testBit_ite, snd_ite, h26, ite_self])
  case h_3 | h_4 =>
    cases h
    exact fk_vpa _ _ _ (by simp only [vpa_SA, vpa_SAD, vpa_SALD, vpa_SD, vpa_SAL, vpa_SB, vpa_WR, vpa_RD, vpa_VDA, testBit_ite, snd_ite, h25, ite_self])
  case h_5 =>
    cases h
    exact fk_fetch _ _ _ (by simp only [bank_SA, bank_SAD, bank_SALD, bank_SD, bank_WR, bank_RD, bank_VPA, bank_VDA])

theorem op_1A_fetch (step : Nat) (c : w65816_t) (pins : Nat) (r : w65816_t × Nat)
    (h25 : pins.testBit 25 = false) (h26 : pins.testBit 26 = false)
    (h : op_1A step c pins = some r) : fetch_ok pins r := by
  unfold op_1A at h
  split at h
  case h_3 => exact Option.noConfusion h
  case h_1 =>
    cases h
    exact fk_vpa _ _ _ (by simp only [vpa_SA, vpa_SAD, vpa_SALD, vpa_SD, vpa_SAL, vpa_SB, vpa_WR, vpa_RD, vpa_VDA, testBit_ite, snd_ite, h25, ite_self])
  case h_2 =>
    cases h
    exact fk_fetch _ _ _ (by simp only [bank_SA, bank_SAD, bank_SALD, bank_SD, bank_WR, bank_RD, bank_VPA, bank_VDA])

theorem op_1B_fetch (step : Nat) (c : w65816_t) (pins : Nat) (r : w65816_t × Nat)
    (h25 : pins.testBit 25 = false) (h26 : pins.testBit 26 = false)
    (h : op_1B step c pins = some r) : fetch_ok pins r := by
  unfold op_1B at h
  split at h
  case h_3 => exact Option.noConfusion h
  case h_1 =>
    cases h
    exact fk_vpa _ _ _ (by simp only [vpa_SA, vpa_SAD, vpa_SALD, vpa_SD, vpa_SAL, vpa_SB, vpa_WR, vpa_RD, vpa_VDA, testBit_ite, snd_ite, h25, ite_self])
  case h_2 =>
    cases h
    exact fk_fetch _ _ _ (by simp only [bank_SA, bank_SAD, bank_SALD, bank_SD, bank_WR, bank_RD, bank_VPA, bank_VDA])

theorem op_1C_fetch (step : Nat) (c : w65816_t) (pins : Nat) (r : w65816_t × Nat)
    (h25 : pins.testBit 25 = false) (h26 : pins.testBit 26 = false)
    (h : op_1C step c pins = some r) : fetch_ok pins r := by
  unfold op_1C at h
  split at h
  case h_7 => exact Option.noConfusion h
  case h_1 | h_2 =>
    cases h
    exact fk_vda _ _ _ (by simp only [vda_SA, vda_SAD, vda_SALD, vda_SD, vda_SAL, vda_SB, vda_WR, vda_RD, vda_VPA, testBit_ite, snd_ite, h26, ite_self])
  case h_3 | h_4 | h_5 =>
    cases h
    exact fk_vpa _ _ _ (by simp only [vpa_SA, vpa_SAD, vpa_SALD, vpa_SD, vpa_SAL, vpa_SB, vpa_WR, vpa_RD, vpa_VDA, testBit_ite, snd_ite, h25, ite_self])
  case h_6 =>
    cases h
    exact fk_fetch _ _ _ (by simp only [bank_SA, bank_SAD, bank_SALD, bank_SD, bank_WR, bank_RD, bank_VPA, bank_VDA])

theorem op_1D_fetch (step : Nat) (c : w65816_t) (pins : Nat) (r : w65816_t × Nat)
    (h25 : pins.testBit 25 = false) (h26 : pins.testBit 26 = false)
    (h : op_1D step c pins = some r) : fetch_ok pins r := by
  unfold op_1D at h
  split at h
  case h_6 => exact Option.noConfusion h
  case h_1 | h_2 =>
    cases h
    exact fk_vda _ _ _ (by simp only [vda_SA, vda_SAD, vda_SALD, vda_SD, vda_SAL, vda_SB, vda_WR, vda_RD, vda_VPA, testBit_ite, snd_ite, h26, ite_self])
  case h_3 | h_4 =>
    cases h
    exact fk_vpa _ _ _ (by simp only [vpa_SA, vpa_SAD, vpa_SALD, vpa_SD, vpa_SAL, vpa_SB, vpa_WR, vpa_RD, vpa_VDA, testBit_ite, snd_ite, h25, ite_self])
  case h_5 =>
    cases h
    exact fk_fetch _ _ _ (by simp only [bank_SA, bank_SAD, bank_SALD, bank_SD, bank_WR, bank_RD, bank_VPA, bank_VDA])

theorem op_1E_fetch (step : Nat) (c : w65816_t) (pins : Nat) (r : w65816_t × Nat)
    (h25 : pins.testBit 25 = false) (h26 : pins.testBit 26 = false)
    (h : op_1E step c pins = some r) : fetch_ok pins r := by
  unfold op_1E at h
  split at h
  case h_8 => exact Option.noConfusion h
  case h_1 | h_2 =>
    cases h
    exact fk_vda _ _ _ (by simp only [vda_SA, vda_SAD, vda_SALD, vda_SD, vda_SAL, vda_SB, vda_WR, vda_RD, vda_VPA, testBit_ite, snd_ite, h26, ite_self])
  case h_3 | h_4 | h_5 | h_6 =>
    cases h
    exact fk_vpa _ _ _ (by simp only [vpa_SA, vpa_SAD, vpa_SALD, vpa_SD, vpa_SAL, vpa_SB, vpa_WR, vpa_RD, vpa_VDA, testBit_ite, snd_ite, h25, ite_self])
  case h_7 =>
    cases h
    exact fk_fetch _ _ _ (by simp only [bank_SA, bank_SAD, bank_SALD, bank_SD, bank_WR, bank_RD, bank_VPA, bank_VDA])

theorem op_1F_fetch (step : Nat) (c : w65816_t) (pins : Nat) (r : w65816_t × Nat)
    (h25 : pins.testBit 25 = false) (h26 : pins.testBit 26 = false)
    (h : op_1F step c pins = some r) : fetch_ok pins r := by
  unfold op_1F at h
  split at h
  case h_4 => exact Option.noConfusion h
  case h_1 | h_2 =>
    cases h
    exact fk_vpa _ _ _ (by simp only [vpa_SA, vpa_SAD, vpa_SALD, vpa_SD, vpa_SAL, vpa_SB, vpa_WR, vpa_RD, vpa_VDA, testBit_ite, snd_ite, h25, ite_self])
  case h_3 =>
    cases h
    exact fk_fetch _ _ _ (by simp only [bank_SA, bank_SAD, bank_SALD, bank_SD, bank_WR, bank_RD, bank_VPA, bank_VDA])

theorem op_20_fetch (step : Nat) (c : w65816_t) (pins : Nat) (r : w65816_t × Nat)
    (h25 : pins.testBit 25 = false) (h26 : pins.testBit 26 = false)
    (h : op_20 step c pins = some r) : fetch_ok pins r := by
  unfold op_20 at h
  split at h
  case h_7 => exact Option.noConfusion h
  case h_1 | h_5 =>
    cases h
    exact fk_vda _ _ _ (by simp only [vda_SA, vda_SAD, vda_SALD, vda_SD, vda_SAL, vda_SB, vda_WR, vda_RD, vda_VPA, testBit_ite, snd_ite, h26, ite_self])
  case h_2 | h_3 | h_4 =>
    cases h
    exact fk_vpa _ _ _ (by simp only [vpa_SA, vpa_SAD, vpa_SALD, vpa_SD, vpa_SAL, vpa_SB, vpa_WR, vpa_RD, vpa_VDA, testBit_ite, snd_ite, h25, ite_self])
  case h_6 =>
    cases h
    exact fk_fetch _ _ _ (by simp only [bank_SA, bank_SAD, bank_SALD, bank_SD, bank_WR, bank_RD, bank_VPA, bank_VDA])

theorem op_21_fetch (step : Nat) (c : w65816_t) (pins : Nat) (r : w65816_t × Nat)
    (h25 : pins.testBit 25 = false) (h26 : pins.testBit 26 = false)
    (h : op_21 step c pins = some r) : fetch_ok pins r := by
  unfold op_21 at h
  split at h
  case h_7 => exact Option.noConfusion h
  case h_1 =>
    cases h
    exact fk_vda _ _ _ (by simp only [vda_SA, vda_SAD, vda_SALD, vda_SD, vda_SAL, vda_SB, vda_WR, vda_RD, vda_VPA, testBit_ite, snd_ite, h26, ite_self])
  case h_2 | h_3 | h_4 | h_5 =>
    cases h
    exact fk_vpa _ _ _ (by simp only [vpa_SA, vpa_SAD, vpa_SALD, vpa_SD, vpa_SAL, vpa_SB, vpa_WR, vpa_RD, vpa_VDA, testBit_ite, snd_ite, h25, ite_self])
  case h_6 =>
    cases h
    exact fk_fetch _ _ _ (by simp only [bank_SA, bank_SAD, bank_SALD, bank_SD, bank_WR, bank_RD, bank_VPA, bank_VDA])

theorem op_22_fetch (step : Nat) (c : w65816_t) (pins : Nat) (r : w65816_t × Nat)
    (h25 : pins.testBit 25 = false) (h26 : pins.testBit 26 = false)
    (h : op_22 step c pins = some r) : fetch_ok pins r := by
  unfold op_22 at h
  split at h
  case h_4 => exact Option.noConfusion h
  case h_1 | h_2 =>
    cases h
    exact fk_vpa _ _ _ (by simp only [vpa_SA, vpa_SAD, vpa_SALD, vpa_SD, vpa_SAL, vpa_SB, vpa_WR, vpa_RD, vpa_VDA, testBit_ite, snd_ite, h25, ite_self])
  case h_3 =>
    cases h
    exact fk_fetch _ _ _ (by simp only [bank_SA, bank_SAD, bank_SALD, bank_SD, bank_WR, bank_RD, bank_VPA, bank_VDA])

theorem op_23_fetch (step : Nat) (c : w65816_t) (pins : Nat) (r : w65816_t × Nat)
    (h25 : pins.testBit 25 = false) (h26 : pins.testBit 26 = false)
    (h : op_23 step c pins = some r) : fetch_ok pins r := by
  unfold op_23 at h
  split at h
  case h_4 => exact Option.noConfusion h
  case h_1 | h_2 =>
    cases h
    exact fk_vpa _ _ _ (by simp only [vpa_SA, vpa_SAD, vpa_SALD, vpa_SD, vpa_SAL, vpa_SB, vpa_WR, vpa_RD, vpa_VDA, testBit_ite, snd_ite, h25, ite_self])
  case h_3 =>
    cases h
    exact fk_fetch _ _ _ (by simp only [bank_SA, bank_SAD, bank_SALD, bank_SD, bank_WR, bank_RD, bank_VPA, bank_VDA])

theorem op_24_fetch (step : Nat) (c : w65816_t) (pins : Nat) (r : w65816_t × Nat)
    (h25 : pins.testBit 25 = false) (h26 : pins.testBit 26 = false)
    (h : op_24 step c pins = some r) : fetch_ok pins r := by
  unfold op_24 at h
  split at h
  case h_4 => exact Option.noConfusion h
  case h_1 =>
    cases h
    exact fk_vda _ _ _ (by simp only [vda_SA, vda_SAD, vda_SALD, vda_SD, vda_SAL, vda_SB, vda_WR, vda_RD, vda_VPA, testBit_ite, snd_ite, h26, ite_self])
  case h_2 =>
    cases h
    exact fk_vpa _ _ _ (by simp only [vpa_SA, vpa_SAD, vpa_SALD, vpa_SD, vpa_SAL, vpa_SB, vpa_WR, vpa_RD, vpa_VDA, testBit_ite, snd_ite, h25, ite_self])
  case h_3 =>
    cases h
    exact fk_fetch _ _ _ (by simp only [bank_SA, bank_SAD, bank_SALD, bank_SD, bank_WR, bank_RD, bank_VPA, bank_VDA])

theorem op_25_fetch (step : Nat) (c : w65816_t) (pins : Nat) (r : w65816_t × Nat)
    (h25 : pins.testBit 25 = false) (h26 : pins.testBit 26 = false)
    (h : op_25 step c pins = some r) : fetch_ok pins r := by
  unfold op_25 at h
  split at h
  case h_4 => exact Option.noConfusion h
  case h_1 =>
    cases h
    exact fk_vda _ _ _ (by simp only [vda_SA, vda_SAD, vda_SALD, vda_SD, vda_SAL, vda_SB, vda_WR, vda_RD, vda_VPA, testBit_ite, snd_ite, h26, ite_self])
  case h_2 =>
    cases h
    exact fk_vpa _ _ _ (by simp only [vpa_SA, vpa_SAD, vpa_SALD, vpa_SD, vpa_SAL, vpa_SB, vpa_WR, vpa_RD, vpa_VDA, testBit_ite, snd_ite, h25, ite_self])
  case h_3 =>
    cases h
    exact fk_fetch _ _ _ (by simp only [bank_SA, bank_SAD, bank_SALD, bank_SD, bank_WR, bank_RD, bank_VPA, bank_VDA])

theorem op_26_fetch (step : Nat) (c : w65816_t) (pins : Nat) (r : w65816_t × Nat)
    (h25 : pins.testBit 25 = false) (h26 : pins.testBit 26 = false)
    (h : op_26 step c pins = some r) : fetch_ok pins r := by
  unfold op_26 at h
  split at h
  case h_6 => exact Option.noConfusion h
  case h_1 =>
    cases h
    exact fk_vda _ _ _ (by simp only [vda_SA, vda_SAD, vda_SALD, vda_SD, vda_SAL, vda_SB, vda_WR, vda_RD, vda_VPA, testBit_ite, snd_ite, h26, ite_self])
  case h_2 | h_3 | h_4 =>
    cases h
    exact fk_vpa _ _ _ (by simp only [vpa_SA, vpa_SAD, vpa_SALD, vpa_SD, vpa_SAL, vpa_SB, vpa_WR, vpa_RD, vpa_VDA, testBit_ite, snd_ite, h25, ite_self])
  case h_5 =>
    cases h
    exact fk_fetch _ _ _ (by simp only [bank_SA, bank_SAD, bank_SALD, bank_SD, bank_WR, bank_RD, bank_VPA, bank_VDA])

theorem op_27_fetch (step : Nat) (c : w65816_t) (pins : Nat) (r : w65816_t × Nat)
    (h25 : pins.testBit 25 = false) (h26 : pins.testBit 26 = false)
    (h : op_27 step c pins = some r) : fetch_ok pins r := by
  unfold op_27 at h
  split at h
  case h_4 => exact Option.noConfusion h
  case h_1 | h_2 =>
    cases h
    exact fk_vpa _ _ _ (by simp only [vpa_SA, vpa_SAD, vpa_SALD, vpa_SD, vpa_SAL, vpa_SB, vpa_WR, vpa_RD, vpa_VDA, testBit_ite, snd_ite, h25, ite_self])
  case h_3 =>
    cases h
    exact fk_fetch _ _ _ (by simp only [bank_SA, bank_SAD, bank_SALD, bank_SD, bank_WR, bank_RD, bank_VPA, bank_VDA])

theorem op_28_fetch (step : Nat) (c : w65816_t) (pins : Nat) (r : w65816_t × Nat)
    (h25 : pins.testBit 25 = false) (h26 : pins.testBit 26 = false)
    (h : op_28 step c pins = some r) : fetch_ok pins r := by
  unfold op_28 at h
  split at h
  case h_5 => exact Option.noConfusion h
  case h_1 | h_2 | h_3 =>
    cases h
    exact fk_vpa _ _ _ (by simp only [vpa_SA, vpa_SAD, vpa_SALD, vpa_SD, vpa_SAL, vpa_SB, vpa_WR, vpa_RD, vpa_VDA, testBit_ite, snd_ite, h25, ite_self])
  case h_4 =>
    cases h
    exact fk_fetch _ _ _ (by simp only [bank_SA, bank_SAD, bank_SALD, bank_SD, bank_WR, bank_RD, bank_VPA, bank_VDA])

theorem op_29_fetch (step : Nat) (c : w65816_t) (pins : Nat) (r : w65816_t × Nat)
    (h25 : pins.testBit 25 = false) (h26 : pins.testBit 26 = false)
    (h : op_29 step c pins = some r) : fetch_ok pins r := by
  unfold op_29 at h
  split at h
  case h_3 => exact Option.noConfusion h
  case h_1 =>
    cases h
    exact fk_vda _ _ _ (by simp only [vda_SA, vda_SAD, vda_SALD, vda_SD, vda_SAL, vda_SB, vda_WR, vda_RD, vda_VPA, testBit_ite, snd_ite, h26, ite_self])
  case h_2 =>
    cases h
    exact fk_fetch _ _ _ (by simp only [bank_SA, bank_SAD, bank_SALD, bank_SD, bank_WR, bank_RD, bank_VPA, bank_VDA])

theorem op_2A_fetch (step : Nat) (c : w65816_t) (pins : Nat) (r : w65816_t × Nat)
    (h25 : pins.testBit 25 = false) (h26 : pins.testBit 26 = false)
    (h : op_2A step c pins = some r) : fetch_ok pins r := by
  unfold op_2A at h
  split at h
  case h_3 => exact Option.noConfusion h
  case h_1 =>
    cases h
    exact fk_vpa _ _ _ (by simp only [vpa_SA, vpa_SAD, vpa_SALD, vpa_SD, vpa_SAL, vpa_SB, vpa_WR, vpa_RD, vpa_VDA, testBit_ite, snd_ite, h25, ite_self])
  case h_2 =>
    cases h
    exact fk_fetch _ _ _ (by simp only [bank_SA, bank_SAD, bank_SALD, bank_SD, bank_WR, bank_RD, bank_VPA, bank_VDA])

theorem op_2B_fetch (step : Nat) (c : w65816_t) (pins : Nat) (r : w65816_t × Nat)
    (h25 : pins.testBit 25 = false) (h26 : pins.testBit 26 = false)
    (h : op_2B step c pins = some r) : fetch_ok pins r := by
  unfold op_2B at h
  split at h
  case h_6 => exact Option.noConfusion h
  case h_1 | h_2 | h_3 | h_4 =>
    cases h
    exact fk_vpa _ _ _ (by simp only [vpa_SA, vpa_SAD, vpa_SALD, vpa_SD, vpa_SAL, vpa_SB, vpa_WR, vpa_RD, vpa_VDA, testBit_ite, snd_ite, h25, ite_self])
  case h_5 =>
    cases h
    exact fk_fetch _ _ _ (by simp only [bank_SA, bank_SAD, bank_SALD, bank_SD, bank_WR, bank_RD, bank_VPA, bank_VDA])

theorem op_2C_fetch (step : Nat) (c : w65816_t) (pins : Nat) (r : w65816_t × Nat)
    (h25 : pins.testBit 25 = false) (h26 : pins.testBit 26 = false)
    (h : op_2C step c pins = some r) : fetch_ok pins r := by
  unfold op_2C at h
  split at h
  case h_5 => exact Option.noConfusion h
  case h_1 | h_2 =>
    cases h
    exact fk_vda _ _ _ (by simp only [vda_SA, vda_SAD, vda_SALD, vda_SD, vda_SAL, vda_SB, vda_WR, vda_RD, vda_VPA, testBit_ite, snd_ite, h26, ite_self])
  case h_3 =>
    cases h
    exact fk_vpa _ _ _ (by simp only [vpa_SA, vpa_SAD, vpa_SALD, vpa_SD, vpa_SAL, vpa_SB, vpa_WR, vpa_RD, vpa_VDA, testBit_ite, snd_ite, h25, ite_self])
  case h_4 =>
    cases h
    exact fk_fetch _ _ _ (by simp only [bank_SA, bank_SAD, bank_SALD, bank_SD, bank_WR, bank_RD, bank_VPA, bank_VDA])

theorem op_2D_fetch (step : Nat) (c : w65816_t) (pins : Nat) (r : w65816_t × Nat)
    (h25 : pins.testBit 25 = false) (h26 : pins.testBit 26 = false)
    (h : op_2D step c pins = some r) : fetch_ok pins r := by
  unfold op_2D at h
  split at h
  case h_5 => exact Option.noConfusion h
  case h_1 | h_2 =>
    cases h
    exact fk_vda _ _ _ (by simp only [vda_SA, vda_SAD, vda_SALD, vda_SD, vda_SAL, vda_SB, vda_WR, vda_RD, vda_VPA, testBit_ite, snd_ite, h26, ite_self])
  case h_3 =>
    cases h
    exact fk_vpa _ _ _ (by simp only [vpa_SA, vpa_SAD, vpa_SALD, vpa_SD, vpa_SAL, vpa_SB, vpa_WR, vpa_RD, vpa_VDA, testBit_ite, snd_ite, h25, ite_self])
  case h_4 =>
    cases h
    exact fk_fetch _ _ _ (by simp only [bank_SA, bank_SAD, bank_SALD, bank_SD, bank_WR, bank_RD, bank_VPA, bank_VDA])

theorem op_2E_fetch (step : Nat) (c : w65816_t) (pins : Nat) (r : w65816_t × Nat)
    (h25 : pins.testBit 25 = false) (h26 : pins.testBit 26 = false)
    (h : op_2E step c pins = some r) : fetch_ok pins r := by
  unfold op_2E at h
  split at h
  case h_7 => exact Option.noConfusion h
  case h_1 | h_2 =>
    cases h
    exact fk_vda _ _ _ (by simp only [vda_SA, vda_SAD, vda_SALD, vda_SD, vda_SAL, vda_SB, vda_WR, vda_RD, vda_VPA, testBit_ite, snd_ite, h26, ite_self])
  case h_3 | h_4 | h_5 =>
    cases h
    exact fk_vpa _ _ _ (by simp only [vpa_SA, vpa_SAD, vpa_SALD, vpa_SD, vpa_SAL, vpa_SB, vpa_WR, vpa_RD, vpa_VDA, testBit_ite, snd_ite, h25, ite_self])
  case h_6 =>
    cases h
    exact fk_fetch _ _ _ (by simp only [bank_SA, bank_SAD, bank_SALD, bank_SD, bank_WR, bank_RD, bank_VPA, bank_VDA])

theorem op_2F_fetch (step : Nat) (c : w65816_t) (pins : Nat) (r : w65816_t × Nat)
    (h25 : pins.testBit 25 = false) (h26 : pins.testBit 26 = false)
    (h : op_2F step c pins = some r) : fetch_ok pins r := by
  unfold op_2F at h
  split at h
  case h_4 => exact Option.noConfusion h
  case h_1 | h_2 =>
    cases h
    exact fk_vpa _ _ _ (by simp only [vpa_SA, vpa_SAD, vpa_SALD, vpa_SD, vpa_SAL, vpa_SB, vpa_WR, vpa_RD, vpa_VDA, testBit_ite, snd_ite, h25, ite_self])
  case h_3 =>
    cases h
    exact fk_fetch _ _ _ (by simp only [bank_SA, bank_SAD, bank_SALD, bank_SD, bank_WR, bank_RD, bank_VPA, bank_VDA])

theorem op_30_fetch (step : Nat) (c : w65816_t) (pins : Nat) (r : w65816_t × Nat)
    (h25 : pins.testBit 25 = false) (h26 : pins.testBit 26 = false)
    (h : op_30 step c pins = some r) : fetch_ok pins r := by
  unfold op_30 at h
  split at h
  case h_5 => exact Option.noConfusion h
  case h_1 =>
    cases h
    exact fk_vda _ _ _ (by simp only [vda_SA, vda_SAD, vda_SALD, vda_SD, vda_SAL, vda_SB, vda_WR, vda_RD, vda_VPA, testBit_ite, snd_ite, h26, ite_self])
  case h_2 | h_3 =>
    cases h
    repeat' first
      | (refine fk_fetch _ _ _ ?_; simp only [bank_SA, bank_SAD, bank_SALD, bank_SD, bank_WR, bank_RD, bank_VPA, bank_VDA]; done)
      | (refine fk_vpa _ _ _ ?_; simp only [vpa_SA, vpa_SAD, vpa_SALD, vpa_SD, vpa_SAL, vpa_SB, vpa_WR, vpa_RD, vpa_VDA, testBit_ite, snd_ite, h25, ite_self]; done)
      | (refine fk_vda _ _ _ ?_; simp only [vda_SA, vda_SAD, vda_SALD, vda_SD, vda_SAL, vda_SB, vda_WR, vda_RD, vda_VPA, testBit_ite, snd_ite, h26, ite_self]; done)
      | apply fk_ite_pair
      | apply fk_ite_pins
      | apply fk_ite
  case h_4 =>
    cases h
    exact fk_fetch _ _ _ (by simp only [bank_SA, bank_SAD, bank_SALD, bank_SD, bank_WR, bank_RD, bank_VPA, bank_VDA])

theorem op_31_fetch (step : Nat) (c : w65816_t) (pins : Nat) (r : w65816_t × Nat)
    (h25 : pins.testBit 25 = false) (h26 : pins.testBit 26 = false)
    (h : op_31 step c pins = some r) : fetch_ok pins r := by
  unfold op_31 at h
  split at h
  case h_7 => exact Option.noConfusion h
  case h_1 =>
    cases h
    exact fk_vda _ _ _ (by simp only [vda_SA, vda_SAD, vda_SALD, vda_SD, vda_SAL, vda_SB, vda_WR, vda_RD, vda_VPA, testBit_ite, snd_ite, h26, ite_self])
  case h_2 | h_3 | h_4 | h_5 =>
    cases h
    exact fk_vpa _ _ _ (by simp only [vpa_SA, vpa_SAD, vpa_SALD, vpa_SD, vpa_SAL, vpa_SB, vpa_WR, vpa_RD, vpa_VDA, testBit_ite, snd_ite, h25, ite_self])
  case h_6 =>
    cases h
    exact fk_fetch _ _ _ (by simp only [bank_SA, bank_SAD, bank_SALD, bank_SD, bank_WR, bank_RD, bank_VPA, bank_VDA])

theorem op_32_fetch (step : Nat) (c : w65816_t) (pins : Nat) (r : w65816_t × Nat)
    (h25 : pins.testBit 25 = false) (h26 : pins.testBit 26 = false)
    (h : op_32 step c pins = some r) : fetch_ok pins r := by
  unfold op_32 at h
  split at h
  case h_4 => exact Option.noConfusion h
  case h_1 | h_2 =>
    cases h
    exact fk_vpa _ _ _ (by simp only [vpa_SA, vpa_SAD, vpa_SALD, vpa_SD, vpa_SAL, vpa_SB, vpa_WR, vpa_RD, vpa_VDA, testBit_ite, snd_ite, h25, ite_self])
  case h_3 =>
    cases h
    exact fk_fetch _ _ _ (by simp only [bank_SA, bank_SAD, bank_SALD, bank_SD, bank_WR, bank_RD, bank_VPA, bank_VDA])

theorem op_33_fetch (step : Nat) (c : w65816_t) (pins : Nat) (r : w65816_t × Nat)
    (h25 : pins.testBit 25 = false) (h26 : pins.testBit 26 = false)
    (h : op_33 step c pins = some r) : fetch_ok pins r := by
  unfold op_33 at h
  split at h
  case h_4 => exact Option.noConfusion h
  case h_1 | h_2 =>
    cases h
    exact fk_vpa _ _ _ (by simp only [vpa_SA, vpa_SAD, vpa_SALD, vpa_SD, vpa_SAL, vpa_SB, vpa_WR, vpa_RD, vpa_VDA, testBit_ite, snd_ite, h25, ite_self])
  case h_3 =>
    cases h
    exact fk_fetch _ _ _ (by simp only [bank_SA, bank_SAD, bank_SALD, bank_SD, bank_WR, bank_RD, bank_VPA, bank_VDA])

theorem op_34_fetch (step : Nat) (c : w65816_t) (pins : Nat) (r : w65816_t × Nat)
    (h25 : pins.testBit 25 = false) (h26 : pins.testBit 26 = false)
    (h : op_34 step c pins = some r) : fetch_ok pins r := by
  unfold op_34 at h
  split at h
  case h_5 => exact Option.noConfusion h
  case h_1 =>
    cases h
    exact fk_vda _ _ _ (by simp only [vda_SA, vda_SAD, vda_SALD, vda_SD, vda_SAL, vda_SB, vda_WR, vda_RD, vda_VPA, testBit_ite, snd_ite, h26, ite_self])
  case h_2 | h_3 =>
    cases h
    exact fk_vpa _ _ _ (by simp only [vpa_SA, vpa_SAD, vpa_SALD, vpa_SD, vpa_SAL, vpa_SB, vpa_WR, vpa_RD, vpa_VDA, testBit_ite, snd_ite, h25, ite_self])
  case h_4 =>
    cases h
    exact fk_fetch _ _ _ (by simp only [bank_SA, bank_SAD, bank_SALD, bank_SD, bank_WR, bank_RD, bank_VPA, bank_VDA])

theorem op_35_fetch (step : Nat) (c : w65816_t) (pins : Nat) (r : w65816_t × Nat)
    (h25 : pins.testBit 25 = false) (h26 : pins.testBit 26 = false)
    (h : op_35 step c pins = some r) : fetch_ok pins r := by
  unfold op_35 at h
  split at h
  case h_5 => exact Option.noConfusion h
  case h_1 =>
    cases h
    exact fk_vda _ _ _ (by simp only [vda_SA, vda_SAD, vda_SALD, vda_SD, vda_SAL, vda_SB, vda_WR, vda_RD, vda_VPA, testBit_ite, snd_ite, h26, ite_self])
  case h_2 | h_3 =>
    cases h
    exact fk_vpa _ _ _ (by simp only [vpa_SA, vpa_SAD, vpa_SALD, vpa_SD, vpa_SAL, vpa_SB, vpa_WR, vpa_RD, vpa_VDA, testBit_ite, snd_ite, h25, ite_self])
  case h_4 =>
    cases h
    exact fk_fetch _ _ _ (by simp only [bank_SA, bank_SAD, bank_SALD, bank_SD, bank_WR, bank_RD, bank_VPA, bank_VDA])

theorem op_36_fetch (step : Nat) (c : w65816_t) (pins : Nat) (r : w65816_t × Nat)
    (h25 : pins.testBit 25 = false) (h26 : pins.testBit 26 = false)
    (h : op_36 step c pins = some r) : fetch_ok pins r := by
  unfold op_36 at h
  split at h
  case h_7 => exact Option.noConfusion h
  case h_1 =>
    cases h
    exact fk_vda _ _ _ (by simp only [vda_SA, vda_SAD, vda_SALD, vda_SD, vda_SAL, vda_SB, vda_WR, vda_RD, vda_VPA, testBit_ite, snd_ite, h26, ite_self])
  case h_2 | h_3 | h_4 | h_5 =>
    cases h
    exact fk_vpa _ _ _ (by simp only [vpa_SA, vpa_SAD, vpa_SALD, vpa_SD, vpa_SAL, vpa_SB, vpa_WR, vpa_RD, vpa_VDA, testBit_ite, snd_ite, h25, ite_self])
  case h_6 =>
    cases h
    exact fk_fetch _ _ _ (by simp only [bank_SA, bank_SAD, bank_SALD, bank_SD, bank_WR, bank_RD, bank_VPA, bank_VDA])

theorem op_37_fetch (step : Nat) (c : w65816_t) (pins : Nat) (r : w65816_t × Nat)
    (h25 : pins.testBit 25 = false) (h26 : pins.testBit 26 = false)
    (h : op_37 step c pins = some r) : fetch_ok pins r := by
  unfold op_37 at h
  split at h
  case h_4 => exact Option.noConfusion h
  case h_1 | h_2 =>
    cases h
    exact fk_vpa _ _ _ (by simp only [vpa_SA, vpa_SAD, vpa_SALD, vpa_SD, vpa_SAL, vpa_SB, vpa_WR, vpa_RD, vpa_VDA, testBit_ite, snd_ite, h25, ite_self])
  case h_3 =>
    cases h
    exact fk_fetch _ _ _ (by simp only [bank_SA, bank_SAD, bank_SALD, bank_SD, bank_WR, bank_RD, bank_VPA, bank_VDA])

theorem op_38_fetch (step : Nat) (c : w65816_t) (pins : Nat) (r : w65816_t × Nat)
    (h25 : pins.testBit 25 = false) (h26 : pins.testBit 26 = false)
    (h : op_38 step c pins = some r) : fetch_ok pins r := by
  unfold op_38 at h
  split at h
  case h_3 => exact Option.noConfusion h
  case h_1 =>
    cases h
    exact fk_vpa _ _ _ (by simp only [vpa_SA, vpa_SAD, vpa_SALD, vpa_SD, vpa_SAL, vpa_SB, vpa_WR, vpa_RD, vpa_VDA, testBit_ite, snd_ite, h25, ite_self])
  case h_2 =>
    cases h
    exact fk_fetch _ _ _ (by simp only [bank_SA, bank_SAD, bank_SALD, bank_SD, bank_WR, bank_RD, bank_VPA, bank_VDA])

theorem op_39_fetch (step : Nat) (c : w65816_t) (pins : Nat) (r : w65816_t × Nat)
    (h25 : pins.testBit 25 = false) (h26 : pins.testBit 26 = false)
    (h : op_39 step c pins = some r) : fetch_ok pins r := by
  unfold op_39 at h
  split at h
  case h_6 => exact Option.noConfusion h
  case h_1 | h_2 =>
    cases h
    exact fk_vda _ _ _ (by simp only [vda_SA, vda_SAD, vda_SALD, vda_SD, vda_SAL, vda_SB, vda_WR, vda_RD, vda_VPA, testBit_ite, snd_ite, h26, ite_self])
  case h_3 | h_4 =>
    cases h
    exact fk_vpa _ _ _ (by simp only [vpa_SA, vpa_SAD, vpa_SALD, vpa_SD, vpa_SAL, vpa_SB, vpa_WR, vpa_RD, vpa_VDA, testBit_ite, snd_ite, h25, ite_self])
  case h_5 =>
    cases h
    exact fk_fetch _ _ _ (by simp only [bank_SA, bank_SAD, bank_SALD, bank_SD, bank_WR, bank_RD, bank_VPA, bank_VDA])

theorem op_3A_fetch (step : Nat) (c : w65816_t) (pins : Nat) (r : w65816_t × Nat)
    (h25 : pins.testBit 25 = false) (h26 : pins.testBit 26 = false)
    (h : op_3A step c pins = some r) : fetch_ok pins r := by
  unfold op_3A at h
  split at h
  case h_3 => exact Option.noConfusion h
  case h_1 =>
    cases h
    exact fk_vpa _ _ _ (by simp only [vpa_SA, vpa_SAD, vpa_SALD, vpa_SD, vpa_SAL, vpa_SB, vpa_WR, vpa_RD, vpa_VDA, testBit_ite, snd_ite, h25, ite_self])
  case h_2 =>
    cases h
    exact fk_fetch _ _ _ (by simp only [bank_SA, bank_SAD, bank_SALD, bank_SD, bank_WR, bank_RD, bank_VPA, bank_VDA])

theorem op_3B_fetch (step : Nat) (c : w65816_t) (pins : Nat) (r : w65816_t × Nat)
    (h25 : pins.testBit 25 = false) (h26 : pins.testBit 26 = false)
    (h : op_3B step c pins = some r) : fetch_ok pins r := by
  unfold op_3B at h
  split at h
  case h_4 => exact Option.noConfusion h
  case h_1 | h_2 =>
    cases h
    exact fk_vpa _ _ _ (by simp only [vpa_SA, vpa_SAD, vpa_SALD, vpa_SD, vpa_SAL, vpa_SB, vpa_WR, vpa_RD, vpa_VDA, testBit_ite, snd_ite, h25, ite_self])
  case h_3 =>
    cases h
    exact fk_fetch _ _ _ (by simp only [bank_SA, bank_SAD, bank_SALD, bank_SD, bank_WR, bank_RD, bank_VPA, bank_VDA])

theorem op_3C_fetch (step : Nat) (c : w65816_t) (pins : Nat) (r : w65816_t × Nat)
    (h25 : pins.testBit 25 = false) (h26 : pins.testBit 26 = false)
    (h : op_3C step c pins = some r) : fetch_ok pins r := by
  unfold op_3C at h
  split at h
  case h_6 => exact Option.noConfusion h
  case h_1 | h_2 =>
    cases h
    exact fk_vda _ _ _ (by simp only [vda_SA, vda_SAD, vda_SALD, vda_SD, vda_SAL, vda_SB, vda_WR, vda_RD, vda_VPA, testBit_ite, snd_ite, h26, ite_self])
  case h_3 | h_4 =>
    cases h
    exact fk_vpa _ _ _ (by simp only [vpa_SA, vpa_SAD, vpa_SALD, vpa_SD, vpa_SAL, vpa_SB, vpa_WR, vpa_RD, vpa_VDA, testBit_ite, snd_ite, h25, ite_self])
  case h_5 =>
    cases h
    exact fk_fetch _ _ _ (by simp only [bank_SA, bank_SAD, bank_SALD, bank_SD, bank_WR, bank_RD, bank_VPA, bank_VDA])

theorem op_3D_fetch (step : Nat) (c : w65816_t) (pins : Nat) (r : w65816_t × Nat)
    (h25 : pins.testBit 25 = false) (h26 : pins.testBit 26 = false)
    (h : op_3D step c pins = some r) : fetch_ok pins r := by
  unfold op_3D at h
  split at h
  case h_6 => exact Option.noConfusion h
  case h_1 | h_2 =>
    cases h
    exact fk_vda _ _ _ (by simp only [vda_SA, vda_SAD, vda_SALD, vda_SD, vda_SAL, vda_SB, vda_WR, vda_RD, vda_VPA, testBit_ite, snd_ite, h26, ite_self])
  case h_3 | h_4 =>
    cases h
    exact fk_vpa _ _ _ (by simp only [vpa_SA, vpa_SAD, vpa_SALD, vpa_SD, vpa_SAL, vpa_SB, vpa_WR, vpa_RD, vpa_VDA, testBit_ite, snd_ite, h25, ite_self])
  case h_5 =>
    cases h
    exact fk_fetch _ _ _ (by simp only [bank_SA, bank_SAD, bank_SALD, bank_SD, bank_WR, bank_RD, bank_VPA, bank_VDA])

theorem op_3E_fetch (step : Nat) (c : w65816_t) (pins : Nat) (r : w65816_t × Nat)
    (h25 : pins.testBit 25 = false) (h26 : pins.testBit 26 = false)
    (h : op_3E step c pins = some r) : fetch_ok pins r := by
  unfold op_3E at h
  split at h
  case h_8 => exact Option.noConfusion h
  case h_1 | h_2 =>
    cases h
    exact fk_vda _ _ _ (by simp only [vda_SA, vda_SAD, vda_SALD, vda_SD, vda_SAL, vda_SB, vda_WR, vda_RD, vda_VPA, testBit_ite, snd_ite, h26, ite_self])
  case h_3 | h_4 | h_5 | h_6 =>
    cases h
    exact fk_vpa _ _ _ (by simp only [vpa_SA, vpa_SAD, vpa_SALD, vpa_SD, vpa_SAL, vpa_SB, vpa_WR, vpa_RD, vpa_VDA, testBit_ite, snd_ite, h25, ite_self])
  case h_7 =>
    cases h
    exact fk_fetch _ _ _ (by simp only [bank_SA, bank_SAD, bank_SALD, bank_SD, bank_WR, bank_RD, bank_VPA, bank_VDA])

theorem op_3F_fetch (step : Nat) (c : w65816_t) (pins : Nat) (r : w65816_t × Nat)
    (h25 : pins.testBit 25 = false) (h26 : pins.testBit 26 = false)
    (h : op_3F step c pins = some r) : fetch_ok pins r := by
  unfold op_3F at h
  split at h
  case h_4 => exact Option.noConfusion h
  case h_1 | h_2 =>
    cases h
    exact fk_vpa _ _ _ (by simp only [vpa_SA, vpa_SAD, vpa_SALD, vpa_SD, vpa_SAL, vpa_SB, vpa_WR, vpa_RD, vpa_VDA, testBit_ite, snd_ite, h25, ite_self])
  case h_3 =>
    cases h
    exact fk_fetch _ _ _ (by simp only [bank_SA, bank_SAD, bank_SALD, bank_SD, bank_WR, bank_RD, bank_VPA, bank_VDA])

theorem op_40_fetch (step : Nat) (c : w65816_t) (pins : Nat) (r : w65816_t × Nat)
    (h25 : pins.testBit 25 = false) (h26 : pins.testBit 26 = false)
    (h : op_40 step c pins = some r) : fetch_ok pins r := by
  unfold op_40 at h
  split at h
  case h_7 => exact Option.noConfusion h
  case h_1 | h_2 | h_3 | h_4 | h_5 =>
    cases h
    exact fk_vpa _ _ _ (by simp only [vpa_SA, vpa_SAD, vpa_SALD, vpa_SD, vpa_SAL, vpa_SB, vpa_WR, vpa_RD, vpa_VDA, testBit_ite, snd_ite, h25, ite_self])
  case h_6 =>
    cases h
    exact fk_fetch _ _ _ (by simp only [bank_SA, bank_SAD, bank_SALD, bank_SD, bank_WR, bank_RD, bank_VPA, bank_VDA])

theorem op_41_fetch (step : Nat) (c : w65816_t) (pins : Nat) (r : w65816_t × Nat)
    (h25 : pins.testBit 25 = false) (h26 : pins.testBit 26 = false)
    (h : op_41 step c pins = some r) : fetch_ok pins r := by
  unfold op_41 at h
  split at h
  case h_7 => exact Option.noConfusion h
  case h_1 =>
    cases h
    exact fk_vda _ _ _ (by simp only [vda_SA, vda_SAD, vda_SALD, vda_SD, vda_SAL, vda_SB, vda_WR, vda_RD, vda_VPA, testBit_ite, snd_ite, h26, ite_self])
  case h_2 | h_3 | h_4 | h_5 =>
    cases h
    exact fk_vpa _ _ _ (by simp only [vpa_SA, vpa_SAD, vpa_SALD, vpa_SD, vpa_SAL, vpa_SB, vpa_WR, vpa_RD, vpa_VDA, testBit_ite, snd_ite, h25, ite_self])
  case h_6 =>
    cases h
    exact fk_fetch _ _ _ (by simp only [bank_SA, bank_SAD, bank_SALD, bank_SD, bank_WR, bank_RD, bank_VPA, bank_VDA])

theorem op_42_fetch (step : Nat) (c : w65816_t) (pins : Nat) (r : w65816_t × Nat)
    (h25 : pins.testBit 25 = false) (h26 : pins.testBit 26 = false)
    (h : op_42 step c pins = some r) : fetch_ok pins r := by
  unfold op_42 at h
  split at h
  case h_3 => exact Option.noConfusion h
  case h_1 =>
    cases h
    exact fk_vda _ _ _ (by simp only [vda_SA, vda_SAD, vda_SALD, vda_SD, vda_SAL, vda_SB, vda_WR, vda_RD, vda_VPA, testBit_ite, snd_ite, h26, ite_self])
  case h_2 =>
    cases h
    exact fk_fetch _ _ _ (by simp only [bank_SA, bank_SAD, bank_SALD, bank_SD, bank_WR, bank_RD, bank_VPA, bank_VDA])

theorem op_43_fetch (step : Nat) (c : w65816_t) (pins : Nat) (r : w65816_t × Nat)
    (h25 : pins.testBit 25 = false) (h26 : pins.testBit 26 = false)
    (h : op_43 step c pins = some r) : fetch_ok pins r := by
  unfold op_43 at h
  split at h
  case h_4 => exact Option.noConfusion h
  case h_1 | h_2 =>
    cases h
    exact fk_vpa _ _ _ (by simp only [vpa_SA, vpa_SAD, vpa_SALD, vpa_SD, vpa_SAL, vpa_SB, vpa_WR, vpa_RD, vpa_VDA, testBit_ite, snd_ite, h25, ite_self])
  case h_3 =>
    cases h
    exact fk_fetch _ _ _ (by simp only [bank_SA, bank_SAD, bank_SALD, bank_SD, bank_WR, bank_RD, bank_VPA, bank_VDA])

theorem op_44_fetch (step : Nat) (c : w65816_t) (pins : Nat) (r : w65816_t × Nat)
    (h25 : pins.testBit 25 = false) (h26 : pins.testBit 26 = false)
    (h : op_44 step c pins = some r) : fetch_ok pins r := by
  unfold op_44 at h
  split at h
  case h_8 => exact Option.noConfusion h
  case h_1 | h_2 =>
    cases h
    exact fk_vda _ _ _ (by simp only [vda_SA, vda_SAD, vda_SALD, vda_SD, vda_SAL, vda_SB, vda_WR, vda_RD, vda_VPA, testBit_ite, snd_ite, h26, ite_self])
  case h_3 | h_4 | h_5 | h_6 =>
    cases h
    exact fk_vpa _ _ _ (by simp only [vpa_SA, vpa_SAD, vpa_SALD, vpa_SD, vpa_SAL, vpa_SB, vpa_WR, vpa_RD, vpa_VDA, testBit_ite, snd_ite, h25, ite_self])
  case h_7 =>
    cases h
    exact fk_fetch _ _ _ (by simp only [bank_SA, bank_SAD, bank_SALD, bank_SD, bank_WR, bank_RD, bank_VPA, bank_VDA])

theorem op_45_fetch (step : Nat) (c : w65816_t) (pins : Nat) (r : w65816_t × Nat)
    (h25 : pins.testBit 25 = false) (h26 : pins.testBit 26 = false)
    (h : op_45 step c pins = some r) : fetch_ok pins r := by
  unfold op_45 at h
  split at h
  case h_4 => exact Option.noConfusion h
  case h_1 =>
    cases h
    exact fk_vda _ _ _ (by simp only [vda_SA, vda_SAD, vda_SALD, vda_SD, vda_SAL, vda_SB, vda_WR, vda_RD, vda_VPA, testBit_ite, snd_ite, h26, ite_self])
  case h_2 =>
    cases h
    exact fk_vpa _ _ _ (by simp only [vpa_SA, vpa_SAD, vpa_SALD, vpa_SD, vpa_SAL, vpa_SB, vpa_WR, vpa_RD, vpa_VDA, testBit_ite, snd_ite, h25, ite_self])
  case h_3 =>
    cases h
    exact fk_fetch _ _ _ (by simp only [bank_SA, bank_SAD, bank_SALD, bank_SD, bank_WR, bank_RD, bank_VPA, bank_VDA])

theorem op_46_fetch (step : Nat) (c : w65816_t) (pins : Nat) (r : w65816_t × Nat)
    (h25 : pins.testBit 25 = false) (h26 : pins.testBit 26 = false)
    (h : op_46 step c pins = some r) : fetch_ok pins r := by
  unfold op_46 at h
  split at h
  case h_6 => exact Option.noConfusion h
  case h_1 =>
    cases h
    exact fk_vda _ _ _ (by simp only [vda_SA, vda_SAD, vda_SALD, vda_SD, vda_SAL, vda_SB, vda_WR, vda_RD, vda_VPA, testBit_ite, snd_ite, h26, ite_self])
  case h_2 | h_3 | h_4 =>
    cases h
    exact fk_vpa _ _ _ (by simp only [vpa_SA, vpa_SAD, vpa_SALD, vpa_SD, vpa_SAL, vpa_SB, vpa_WR, vpa_RD, vpa_VDA, testBit_ite, snd_ite, h25, ite_self])
  case h_5 =>
    cases h
    exact fk_fetch _ _ _ (by simp only [bank_SA, bank_SAD, bank_SALD, bank_SD, bank_WR, bank_RD, bank_VPA, bank_VDA])

theorem op_47_fetch (step : Nat) (c : w65816_t) (pins : Nat) (r : w65816_t × Nat)
    (h25 : pins.testBit 25 = false) (h26 : pins.testBit 26 = false)
    (h : op_47 step c pins = some r) : fetch_ok pins r := by
  unfold op_47 at h
  split at h
  case h_4 => exact Option.noConfusion h
  case h_1 | h_2 =>
    cases h
    exact fk_vpa _ _ _ (by simp only [vpa_SA, vpa_SAD, vpa_SALD, vpa_SD, vpa_SAL, vpa_SB, vpa_WR, vpa_RD, vpa_VDA, testBit_ite, snd_ite, h25, ite_self])
  case h_3 =>
    cases h
    exact fk_fetch _ _ _ (by simp only [bank_SA, bank_SAD, bank_SALD, bank_SD, bank_WR, bank_RD, bank_VPA, bank_VDA])

theorem op_48_fetch (step : Nat) (c : w65816_t) (pins : Nat) (r : w65816_t × Nat)
    (h25 : pins.testBit 25 = false) (h26 : pins.testBit 26 = false)
    (h : op_48 step c pins = some r) : fetch_ok pins r := by
  unfold op_48 at h
  split at h
  case h_4 => exact Option.noConfusion h
  case h_1 | h_2 =>
    cases h
    exact fk_vpa _ _ _ (by simp only [vpa_SA, vpa_SAD, vpa_SALD, vpa_SD, vpa_SAL, vpa_SB, vpa_WR, vpa_RD, vpa_VDA, testBit_ite, snd_ite, h25, ite_self])
  case h_3 =>
    cases h
    exact fk_fetch _ _ _ (by simp only [bank_SA, bank_SAD, bank_SALD, bank_SD, bank_WR, bank_RD, bank_VPA, bank_VDA])

theorem op_49_fetch (step : Nat) (c : w65816_t) (pins : Nat) (r : w65816_t × Nat)
    (h25 : pins.testBit 25 = false) (h26 : pins.testBit 26 = false)
    (h : op_49 step c pins = some r) : fetch_ok pins r := by
  unfold op_49 at h
  split at h
  case h_3 => exact Option.noConfusion h
  case h_1 =>
    cases h
    exact fk_vda _ _ _ (by simp only [vda_SA, vda_SAD, vda_SALD, vda_SD, vda_SAL, vda_SB, vda_WR, vda_RD, vda_VPA, testBit_ite, snd_ite, h26, ite_self])
  case h_2 =>
    cases h
    exact fk_fetch _ _ _ (by simp only [bank_SA, bank_SAD, bank_SALD, bank_SD, bank_WR, bank_RD, bank_VPA, bank_VDA])

theorem op_4A_fetch (step : Nat) (c : w65816_t) (pins : Nat) (r : w65816_t × Nat)
    (h25 : pins.testBit 25 = false) (h26 : pins.testBit 26 = false)
    (h : op_4A step c pins = some r) : fetch_ok pins r := by
  unfold op_4A at h
  split at h
  case h_3 => exact Option.noConfusion h
  case h_1 =>
    cases h
    exact fk_vpa _ _ _ (by simp only [vpa_SA, vpa_SAD, vpa_SALD, vpa_SD, vpa_SAL, vpa_SB, vpa_WR, vpa_RD, vpa_VDA, testBit_ite, snd_ite, h25, ite_self])
  case h_2 =>
    cases h
    exact fk_fetch _ _ _ (by simp only [bank_SA, bank_SAD, bank_SALD, bank_SD, bank_WR, bank_RD, bank_VPA, bank_VDA])

theorem op_4B_fetch (step : Nat) (c : w65816_t) (pins : Nat) (r : w65816_t × Nat)
    (h25 : pins.testBit 25 = false) (h26 : pins.testBit 26 = false)
    (h : op_4B step c pins = some r) : fetch_ok pins r := by
  unfold op_4B at h
  split at h
  case h_4 => exact Option.noConfusion h
  case h_1 | h_2 =>
    cases h
    exact fk_vpa _ _ _ (by simp only [vpa_SA, vpa_SAD, vpa_SALD, vpa_SD, vpa_SAL, vpa_SB, vpa_WR, vpa_RD, vpa_VDA, testBit_ite, snd_ite, h25, ite_self])
  case h_3 =>
    cases h
    exact fk_fetch _ _ _ (by simp only [bank_SA, bank_SAD, bank_SALD, bank_SD, bank_WR, bank_RD, bank_VPA, bank_VDA])

theorem op_4C_fetch (step : Nat) (c : w65816_t) (pins : Nat) (r : w65816_t × Nat)
    (h25 : pins.testBit 25 = false) (h26 : pins.testBit 26 = false)
    (h : op_4C step c pins = some r) : fetch_ok pins r := by
  unfold op_4C at h
  split at h
  case h_4 => exact Option.noConfusion h
  case h_1 | h_2 =>
    cases h
    exact fk_vda _ _ _ (by simp only [vda_SA, vda_SAD, vda_SALD, vda_SD, vda_SAL, vda_SB, vda_WR, vda_RD, vda_VPA, testBit_ite, snd_ite, h26, ite_self])
  case h_3 =>
    cases h
    exact fk_fetch _ _ _ (by simp only [bank_SA, bank_SAD, bank_SALD, bank_SD, bank_WR, bank_RD, bank_VPA, bank_VDA])

theorem op_4D_fetch (step : Nat) (c : w65816_t) (pins : Nat) (r : w65816_t × Nat)
    (h25 : pins.testBit 25 = false) (h26 : pins.testBit 26 = false)
    (h : op_4D step c pins = some r) : fetch_ok pins r := by
  unfold op_4D at h
  split at h
  case h_5 => exact Option.noConfusion h
  case h_1 | h_2 =>
    cases h
    exact fk_vda _ _ _ (by simp only [vda_SA, vda_SAD, vda_SALD, vda_SD, vda_SAL, vda_SB, vda_WR, vda_RD, vda_VPA, testBit_ite, snd_ite, h26, ite_self])
  case h_3 =>
    cases h
    exact fk_vpa _ _ _ (by simp only [vpa_SA, vpa_SAD, vpa_SALD, vpa_SD, vpa_SAL, vpa_SB, vpa_WR, vpa_RD, vpa_VDA, testBit_ite, snd_ite, h25, ite_self])
  case h_4 =>
    cases h
    exact fk_fetch _ _ _ (by simp only [bank_SA, bank_SAD, bank_SALD, bank_SD, bank_WR, bank_RD, bank_VPA, bank_VDA])

theorem op_4E_fetch (step : Nat) (c : w65816_t) (pins : Nat) (r : w65816_t × Nat)
    (h25 : pins.testBit 25 = false) (h26 : pins.testBit 26 = false)
    (h : op_4E step c pins = some r) : fetch_ok pins r := by
  unfold op_4E at h
  split at h
  case h_7 => exact Option.noConfusion h
  case h_1 | h_2 =>
    cases h
    exact fk_vda _ _ _ (by simp only [vda_SA, vda_SAD, vda_SALD, vda_SD, vda_SAL, vda_SB, vda_WR, vda_RD, vda_VPA, testBit_ite, snd_ite, h26, ite_self])
  case h_3 | h_4 | h_5 =>
    cases h
    exact fk_vpa _ _ _ (by simp only [vpa_SA, vpa_SAD, vpa_SALD, vpa_SD, vpa_SAL, vpa_SB, vpa_WR, vpa_RD, vpa_VDA, testBit_ite, snd_ite, h25, ite_self])
  case h_6 =>
    cases h
    exact fk_fetch _ _ _ (by simp only [bank_SA, bank_SAD, bank_SALD, bank_SD, bank_WR, bank_RD, bank_VPA, bank_VDA])

theorem op_4F_fetch (step : Nat) (c : w65816_t) (pins : Nat) (r : w65816_t × Nat)
    (h25 : pins.testBit 25 = false) (h26 : pins.testBit 26 = false)
    (h : op_4F step c pins = some r) : fetch_ok pins r := by
  unfold op_4F at h
  split at h
  case h_4 => exact Option.noConfusion h
  case h_1 | h_2 =>
    cases h
    exact fk_vpa _ _ _ (by simp only [vpa_SA, vpa_SAD, vpa_SALD, vpa_SD, vpa_SAL, vpa_SB, vpa_WR, vpa_RD, vpa_VDA, testBit_ite, snd_ite, h25, ite_self])
  case h_3 =>
    cases h
    exact fk_fetch _ _ _ (by simp only [bank_SA, bank_SAD, bank_SALD, bank_SD, bank_WR, bank_RD, bank_VPA, bank_VDA])

theorem op_50_fetch (step : Nat) (c : w65816_t) (pins : Nat) (r : w65816_t × Nat)
    (h25 : pins.testBit 25 = false) (h26 : pins.testBit 26 = false)
    (h : op_50 step c pins = some r) : fetch_ok pins r := by
  unfold op_50 at h
  split at h
  case h_5 => exact Option.noConfusion h
  case h_1 =>
    cases h
    exact fk_vda _ _ _ (by simp only [vda_SA, vda_SAD, vda_SALD, vda_SD, vda_SAL, vda_SB, vda_WR, vda_RD, vda_VPA, testBit_ite, snd_ite, h26, ite_self])
  case h_2 | h_3 =>
    cases h
    repeat' first
      | (refine fk_fetch _ _ _ ?_; simp only [bank_SA, bank_SAD, bank_SALD, bank_SD, bank_WR, bank_RD, bank_VPA, bank_VDA]; done)
      | (refine fk_vpa _ _ _ ?_; simp only [vpa_SA, vpa_SAD, vpa_SALD, vpa_SD, vpa_SAL, vpa_SB, vpa_WR, vpa_RD, vpa_VDA, testBit_ite, snd_ite, h25, ite_self]; done)
      | (refine fk_vda _ _ _ ?_; simp only [vda_SA, vda_SAD, vda_SALD, vda_SD, vda_SAL, vda_SB, vda_WR, vda_RD, vda_VPA, testBit_ite, snd_ite, h26, ite_self]; done)
      | apply fk_ite_pair
      | apply fk_ite_pins
      | apply fk_ite
  case h_4 =>
    cases h
    exact fk_fetch _ _ _ (by simp only [bank_SA, bank_SAD, bank_SALD, bank_SD, bank_WR, bank_RD, bank_VPA, bank_VDA])

theorem op_51_fetch (step : Nat) (c : w65816_t) (pins : Nat) (r : w65816_t × Nat)
    (h25 : pins.testBit 25 = false) (h26 : pins.testBit 26 = false)
    (h : op_51 step c pins = some r) : fetch_ok pins r := by
  unfold op_51 at h
  split at h
  case h_7 => exact Option.noConfusion h
  case h_1 =>
    cases h
    exact fk_vda _ _ _ (by simp only [vda_SA, vda_SAD, vda_SALD, vda_SD, vda_SAL, vda_SB, vda_WR, vda_RD, vda_VPA, testBit_ite, snd_ite, h26, ite_self])
  case h_2 | h_3 | h_4 | h_5 =>
    cases h
    exact fk_vpa _ _ _ (by simp only [vpa_SA, vpa_SAD, vpa_SALD, vpa_SD, vpa_SAL, vpa_SB, vpa_WR, vpa_RD, vpa_VDA, testBit_ite, snd_ite, h25, ite_self])
  case h_6 =>
    cases h
    exact fk_fetch _ _ _ (by simp only [bank_SA, bank_SAD, bank_SALD, bank_SD, bank_WR, bank_RD, bank_VPA, bank_VDA])

theorem op_52_fetch (step : Nat) (c : w65816_t) (pins : Nat) (r : w65816_t × Nat)
    (h25 : pins.testBit 25 = false) (h26 : pins.testBit 26 = false)
    (h : op_52 step c pins = some r) : fetch_ok pins r := by
  unfold op_52 at h
  split at h
  case h_4 => exact Option.noConfusion h
  case h_1 | h_2 =>
    cases h
    exact fk_vpa _ _ _ (by simp only [vpa_SA, vpa_SAD, vpa_SALD, vpa_SD, vpa_SAL, vpa_SB, vpa_WR, vpa_RD, vpa_VDA, testBit_ite, snd_ite, h25, ite_self])
  case h_3 =>
    cases h
    exact fk_fetch _ _ _ (by simp only [bank_SA, bank_SAD, bank_SALD, bank_SD, bank_WR, bank_RD, bank_VPA, bank_VDA])

theorem op_53_fetch (step : Nat) (c : w65816_t) (pins : Nat) (r : w65816_t × Nat)
    (h25 : pins.testBit 25 = false) (h26 : pins.testBit 26 = false)
    (h : op_53 step c pins = some r) : fetch_ok pins r := by
  unfold op_53 at h
  split at h
  case h_4 => exact Option.noConfusion h
  case h_1 | h_2 =>
    cases h
    exact fk_vpa _ _ _ (by simp only [vpa_SA, vpa_SAD, vpa_SALD, vpa_SD, vpa_SAL, vpa_SB, vpa_WR, vpa_RD, vpa_VDA, testBit_ite, snd_ite, h25, ite_self])
  case h_3 =>
    cases h
    exact fk_fetch _ _ _ (by simp only [bank_SA, bank_SAD, bank_SALD, bank_SD, bank_WR, bank_RD, bank_VPA, bank_VDA])

theorem op_54_fetch (step : Nat) (c : w65816_t) (pins : Nat) (r : w65816_t × Nat)
    (h25 : pins.testBit 25 = false) (h26 : pins.testBit 26 = false)
    (h : op_54 step c pins = some r) : fetch_ok pins r := by
  unfold op_54 at h
  split at h
  case h_8 => exact Option.noConfusion h
  case h_1 | h_2 =>
    cases h
    exact fk_vda _ _ _ (by simp only [vda_SA, vda_SAD, vda_SALD, vda_SD, vda_SAL, vda_SB, vda_WR, vda_RD, vda_VPA, testBit_ite, snd_ite, h26, ite_self])
  case h_3 | h_4 | h_5 | h_6 =>
    cases h
    exact fk_vpa _ _ _ (by simp only [vpa_SA, vpa_SAD, vpa_SALD, vpa_SD, vpa_SAL, vpa_SB, vpa_WR, vpa_RD, vpa_VDA, testBit_ite, snd_ite, h25, ite_self])
  case h_7 =>
    cases h
    exact fk_fetch _ _ _ (by simp only [bank_SA, bank_SAD, bank_SALD, bank_SD, bank_WR, bank_RD, bank_VPA, bank_VDA])

theorem op_55_fetch (step : Nat) (c : w65816_t) (pins : Nat) (r : w65816_t × Nat)
    (h25 : pins.testBit 25 = false) (h26 : pins.testBit 26 = false)
    (h : op_55 step c pins = some r) : fetch_ok pins r := by
  unfold op_55 at h
  split at h
  case h_5 => exact Option.noConfusion h
  case h_1 =>
    cases h
    exact fk_vda _ _ _ (by simp only [vda_SA, vda_SAD, vda_SALD, vda_SD, vda_SAL, vda_SB, vda_WR, vda_RD, vda_VPA, testBit_ite, snd_ite, h26, ite_self])
  case h_2 | h_3 =>
    cases h
    exact fk_vpa _ _ _ (by simp only [vpa_SA, vpa_SAD, vpa_SALD, vpa_SD, vpa_SAL, vpa_SB, vpa_WR, vpa_RD, vpa_VDA, testBit_ite, snd_ite, h25, ite_self])
  case h_4 =>
    cases h
    exact fk_fetch _ _ _ (by simp only [bank_SA, bank_SAD, bank_SALD, bank_SD, bank_WR, bank_RD, bank_VPA, bank_VDA])

theorem op_56_fetch (step : Nat) (c : w65816_t) (pins : Nat) (r : w65816_t × Nat)
    (h25 : pins.testBit 25 = false) (h26 : pins.testBit 26 = false)
    (h : op_56 step c pins = some r) : fetch_ok pins r := by
  unfold op_56 at h
  split at h
  case h_7 => exact Option.noConfusion h
  case h_1 =>
    cases h
    exact fk_vda _ _ _ (by simp only [vda_SA, vda_SAD, vda_SALD, vda_SD, vda_SAL, vda_SB, vda_WR, vda_RD, vda_VPA, testBit_ite, snd_ite, h26, ite_self])
  case h_2 | h_3 | h_4 | h_5 =>
    cases h
    exact fk_vpa _ _ _ (by simp only [vpa_SA, vpa_SAD, vpa_SALD, vpa_SD, vpa_SAL, vpa_SB, vpa_WR, vpa_RD, vpa_VDA, testBit_ite, snd_ite, h25, ite_self])
  case h_6 =>
    cases h
    exact fk_fetch _ _ _ (by simp only [bank_SA, bank_SAD, bank_SALD, bank_SD, bank_WR, bank_RD, bank_VPA, bank_VDA])

theorem op_57_fetch (step : Nat) (c : w65816_t) (pins : Nat) (r : w65816_t × Nat)
    (h25 : pins.testBit 25 = false) (h26 : pins.testBit 26 = false)
    (h : op_57 step c pins = some r) : fetch_ok pins r := by
  unfold op_57 at h
  split at h
  case h_4 => exact Option.noConfusion h
  case h_1 | h_2 =>
    cases h
    exact fk_vpa _ _ _ (by simp only [vpa_SA, vpa_SAD, vpa_SALD, vpa_SD, vpa_SAL, vpa_SB, vpa_WR, vpa_RD, vpa_VDA, testBit_ite, snd_ite, h25, ite_self])
  case h_3 =>
    cases h
    exact fk_fetch _ _ _ (by simp only [bank_SA, bank_SAD, bank_SALD, bank_SD, bank_WR, bank_RD, bank_VPA, bank_VDA])

theorem op_58_fetch (step : Nat) (c : w65816_t) (pins : Nat) (r : w65816_t × Nat)
    (h25 : pins.testBit 25 = false) (h26 : pins.testBit 26 = false)
    (h : op_58 step c pins = some r) : fetch_ok pins r := by
  unfold op_58 at h
  split at h
  case h_3 => exact Option.noConfusion h
  case h_1 =>
    cases h
    exact fk_vpa _ _ _ (by simp only [vpa_SA, vpa_SAD, vpa_SALD, vpa_SD, vpa_SAL, vpa_SB, vpa_WR, vpa_RD, vpa_VDA, testBit_ite, snd_ite, h25, ite_self])
  case h_2 =>
    cases h
    exact fk_fetch _ _ _ (by simp only [bank_SA, bank_SAD, bank_SALD, bank_SD, bank_WR, bank_RD, bank_VPA, bank_VDA])

theorem op_59_fetch (step : Nat) (c : w65816_t) (pins : Nat) (r : w65816_t × Nat)
    (h25 : pins.testBit 25 = false) (h26 : pins.testBit 26 = false)
    (h : op_59 step c pins = some r) : fetch_ok pins r := by
  unfold op_59 at h
  split at h
  case h_6 => exact Option.noConfusion h
  case h_1 | h_2 =>
    cases h
    exact fk_vda _ _ _ (by simp only [vda_SA, vda_SAD, vda_SALD, vda_SD, vda_SAL, vda_SB, vda_WR, vda_RD, vda_VPA, testBit_ite, snd_ite, h26, ite_self])
  case h_3 | h_4 =>
    cases h
    exact fk_vpa _ _ _ (by simp only [vpa_SA, vpa_SAD, vpa_SALD, vpa_SD, vpa_SAL, vpa_SB, vpa_WR, vpa_RD, vpa_VDA, testBit_ite, snd_ite, h25, ite_self])
  case h_5 =>
    cases h
    exact fk_fetch _ _ _ (by simp only [bank_SA, bank_SAD, bank_SALD, bank_SD, bank_WR, bank_RD, bank_VPA, bank_VDA])

theorem op_5A_fetch (step : Nat) (c : w65816_t) (pins : Nat) (r : w65816_t × Nat)
    (h25 : pins.testBit 25 = false) (h26 : pins.testBit 26 = false)
    (h : op_5A step c pins = some r) : fetch_ok pins r := by
  unfold op_5A at h
  split at h
  case h_4 => exact Option.noConfusion h
  case h_1 | h_2 =>
    cases h
    exact fk_vpa _ _ _ (by simp only [vpa_SA, vpa_SAD, vpa_SALD, vpa_SD, vpa_SAL, vpa_SB, vpa_WR, vpa_RD, vpa_VDA, testBit_ite, snd_ite, h25, ite_self])
  case h_3 =>
    cases h
    exact fk_fetch _ _ _ (by simp only [bank_SA, bank_SAD, bank_SALD, bank_SD, bank_WR, bank_RD, bank_VPA, bank_VDA])

theorem op_5B_fetch (step : Nat) (c : w65816_t) (pins : Nat) (r : w65816_t × Nat)
    (h25 : pins.testBit 25 = false) (h26 : pins.testBit 26 = false)
    (h : op_5B step c pins = some r) : fetch_ok pins r := by
  unfold op_5B at h
  split at h
  case h_3 => exact Option.noConfusion h
  case h_1 =>
    cases h
    exact fk_vpa _ _ _ (by simp only [vpa_SA, vpa_SAD, vpa_SALD, vpa_SD, vpa_SAL, vpa_SB, vpa_WR, vpa_RD, vpa_VDA, testBit_ite, snd_ite, h25, ite_self])
  case h_2 =>
    cases h
    exact fk_fetch _ _ _ (by simp only [bank_SA, bank_SAD, bank_SALD, bank_SD, bank_WR, bank_RD, bank_VPA, bank_VDA])

theorem op_5C_fetch (step : Nat) (c : w65816_t) (pins : Nat) (r : w65816_t × Nat)
    (h25 : pins.testBit 25 = false) (h26 : pins.testBit 26 = false)
    (h : op_5C step c pins = some r) : fetch_ok pins r := by
  unfold op_5C at h
  split at h
  case h_5 => exact Option.noConfusion h
  case h_1 =>
    cases h
    exact fk_vpa _ _ _ (by simp only [vpa_SA, vpa_SAD, vpa_SALD, vpa_SD, vpa_SAL, vpa_SB, vpa_WR, vpa_RD, vpa_VDA, testBit_ite, snd_ite, h25, ite_self])
  case h_2 | h_3 =>
    cases h
    exact fk_vda _ _ _ (by simp only [vda_SA, vda_SAD, vda_SALD, vda_SD, vda_SAL, vda_SB, vda_WR, vda_RD, vda_VPA, testBit_ite, snd_ite, h26, ite_self])
  case h_4 =>
    cases h
    exact fk_fetch _ _ _ (by simp only [bank_SA, bank_SAD, bank_SALD, bank_SD, bank_WR, bank_RD, bank_VPA, bank_VDA])

theorem op_5D_fetch (step : Nat) (c : w65816_t) (pins : Nat) (r : w65816_t × Nat)
    (h25 : pins.testBit 25 = false) (h26 : pins.testBit 26 = false)
    (h : op_5D step c pins = some r) : fetch_ok pins r := by
  unfold op_5D at h
  split at h
  case h_6 => exact Option.noConfusion h
  case h_1 | h_2 =>
    cases h
    exact fk_vda _ _ _ (by simp only [vda_SA, vda_SAD, vda_SALD, vda_SD, vda_SAL, vda_SB, vda_WR, vda_RD, vda_VPA, testBit_ite, snd_ite, h26, ite_self])
  case h_3 | h_4 =>
    cases h
    exact fk_vpa _ _ _ (by simp only [vpa_SA, vpa_SAD, vpa_SALD, vpa_SD, vpa_SAL, vpa_SB, vpa_WR, vpa_RD, vpa_VDA, testBit_ite, snd_ite, h25, ite_self])
  case h_5 =>
    cases h
    exact fk_fetch _ _ _ (by simp only [bank_SA, bank_SAD, bank_SALD, bank_SD, bank_WR, bank_RD, bank_VPA, bank_VDA])

theorem op_5E_fetch (step : Nat) (c : w65816_t) (pins : Nat) (r : w65816_t × Nat)
    (h25 : pins.testBit 25 = false) (h26 : pins.testBit 26 = false)
    (h : op_5E step c pins = some r) : fetch_ok pins r := by
  unfold op_5E at h
  split at h
  case h_8 => exact Option.noConfusion h
  case h_1 | h_2 =>
    cases h
    exact fk_vda _ _ _ (by simp only [vda_SA, vda_SAD, vda_SALD, vda_SD, vda_SAL, vda_SB, vda_WR, vda_RD, vda_VPA, testBit_ite, snd_ite, h26, ite_self])
  case h_3 | h_4 | h_5 | h_6 =>
    cases h
    exact fk_vpa _ _ _ (by simp only [vpa_SA, vpa_SAD, vpa_SALD, vpa_SD, vpa_SAL, vpa_SB, vpa_WR, vpa_RD, vpa_VDA, testBit_ite, snd_ite, h25, ite_self])
  case h_7 =>
    cases h
    exact fk_fetch _ _ _ (by simp only [bank_SA, bank_SAD, bank_SALD, bank_SD, bank_WR, bank_RD, bank_VPA, bank_VDA])

theorem op_5F_fetch (step : Nat) (c : w65816_t) (pins : Nat) (r : w65816_t × Nat)
    (h25 : pins.testBit 25 = false) (h26 : pins.testBit 26 = false)
    (h : op_5F step c pins = some r) : fetch_ok pins r := by
  unfold op_5F at h
  split at h
  case h_4 => exact Option.noConfusion h
  case h_1 | h_2 =>
    cases h
    exact fk_vpa _ _ _ (by simp only [vpa_SA, vpa_SAD, vpa_SALD, vpa_SD, vpa_SAL, vpa_SB, vpa_WR, vpa_RD, vpa_VDA, testBit_ite, snd_ite, h25, ite_self])
  case h_3 =>
    cases h
    exact fk_fetch _ _ _ (by simp only [bank_SA, bank_SAD, bank_SALD, bank_SD, bank_WR, bank_RD, bank_VPA, bank_VDA])

theorem op_60_fetch (step : Nat) (c : w65816_t) (pins : Nat) (r : w65816_t × Nat)
    (h25 : pins.testBit 25 = false) (h26 : pins.testBit 26 = false)
    (h : op_60 step c pins = some r) : fetch_ok pins r := by
  unfold op_60 at h
  split at h
  case h_7 => exact Option.noConfusion h
  case h_1 | h_2 | h_3 | h_4 | h_5 =>
    cases h
    exact fk_vpa _ _ _ (by simp only [vpa_SA, vpa_SAD, vpa_SALD, vpa_SD, vpa_SAL, vpa_SB, vpa_WR, vpa_RD, vpa_VDA, testBit_ite, snd_ite, h25, ite_self])
  case h_6 =>
    cases h
    exact fk_fetch _ _ _ (by simp only [bank_SA, bank_SAD, bank_SALD, bank_SD, bank_WR, bank_RD, bank_VPA, bank_VDA])

theorem op_61_fetch (step : Nat) (c : w65816_t) (pins : Nat) (r : w65816_t × Nat)
    (h25 : pins.testBit 25 = false) (h26 : pins.testBit 26 = false)
    (h : op_61 step c pins = some r) : fetch_ok pins r := by
  unfold op_61 at h
  split at h
  case h_7 => exact Option.noConfusion h
  case h_1 =>
    cases h
    exact fk_vda _ _ _ (by simp only [vda_SA, vda_SAD, vda_SALD, vda_SD, vda_SAL, vda_SB, vda_WR, vda_RD, vda_VPA, testBit_ite, snd_ite, h26, ite_self])
  case h_2 | h_3 | h_4 | h_5 =>
    cases h
    exact fk_vpa _ _ _ (by simp only [vpa_SA, vpa_SAD, vpa_SALD, vpa_SD, vpa_SAL, vpa_SB, vpa_WR, vpa_RD, vpa_VDA, testBit_ite, snd_ite, h25, ite_self])
  case h_6 =>
    cases h
    exact fk_fetch _ _ _ (by simp only [bank_SA, bank_SAD, bank_SALD, bank_SD, bank_WR, bank_RD, bank_VPA, bank_VDA])

theorem op_62_fetch (step : Nat) (c : w65816_t) (pins : Nat) (r : w65816_t × Nat)
    (h25 : pins.testBit 25 = false) (h26 : pins.testBit 26 = false)
    (h : op_62 step c pins = some r) : fetch_ok pins r := by
  unfold op_62 at h
  split at h
  case h_4 => exact Option.noConfusion h
  case h_1 | h_2 =>
    cases h
    exact fk_vpa _ _ _ (by simp only [vpa_SA, vpa_SAD, vpa_SALD, vpa_SD, vpa_SAL, vpa_SB, vpa_WR, vpa_RD, vpa_VDA, testBit_ite, snd_ite, h25, ite_self])
  case h_3 =>
    cases h
    exact fk_fetch _ _ _ (by simp only [bank_SA, bank_SAD, bank_SALD, bank_SD, bank_WR, bank_RD, bank_VPA, bank_VDA])

theorem op_63_fetch (step : Nat) (c : w65816_t) (pins : Nat) (r : w65816_t × Nat)
    (h25 : pins.testBit 25 = false) (h26 : pins.testBit 26 = false)
    (h : op_63 step c pins = some r) : fetch_ok pins r := by
  unfold op_63 at h
  split at h
  case h_4 => exact Option.noConfusion h
  case h_1 | h_2 =>
    cases h
    exact fk_vpa _ _ _ (by simp only [vpa_SA, vpa_SAD, vpa_SALD, vpa_SD, vpa_SAL, vpa_SB, vpa_WR, vpa_RD, vpa_VDA, testBit_ite, snd_ite, h25, ite_self])
  case h_3 =>
    cases h
    exact fk_fetch _ _ _ (by simp only [bank_SA, bank_SAD, bank_SALD, bank_SD, bank_WR, bank_RD, bank_VPA, bank_VDA])

theorem op_64_fetch (step : Nat) (c : w65816_t) (pins : Nat) (r : w65816_t × Nat)
    (h25 : pins.testBit 25 = false) (h26 : pins.testBit 26 = false)
    (h : op_64 step c pins = some r) : fetch_ok pins r := by
  unfold op_64 at h
  split at h
  case h_5 => exact Option.noConfusion h
  case h_1 =>
    cases h
    exact fk_vda _ _ _ (by simp only [vda_SA, vda_SAD, vda_SALD, vda_SD, vda_SAL, vda_SB, vda_WR, vda_RD, vda_VPA, testBit_ite, snd_ite, h26, ite_self])
  case h_2 =>
    cases h
    exact fk_vpa _ _ _ (by simp only [vpa_SA, vpa_SAD, vpa_SALD, vpa_SD, vpa_SAL, vpa_SB, vpa_WR, vpa_RD, vpa_VDA, testBit_ite, snd_ite, h25, ite_self])
  case h_3 =>
    cases h
    repeat' first
      | (refine fk_fetch _ _ _ ?_; simp only [bank_SA, bank_SAD, bank_SALD, bank_SD, bank_WR, bank_RD, bank_VPA, bank_VDA]; done)
      | (refine fk_vpa _ _ _ ?_; simp only [vpa_SA, vpa_SAD, vpa_SALD, vpa_SD, vpa_SAL, vpa_SB, vpa_WR, vpa_RD, vpa_VDA, testBit_ite, snd_ite, h25, ite_self]; done)
      | (refine fk_vda _ _ _ ?_; simp only [vda_SA, vda_SAD, vda_SALD, vda_SD, vda_SAL, vda_SB, vda_WR, vda_RD, vda_VPA, testBit_ite, snd_ite, h26, ite_self]; done)
      | apply fk_ite_pair
      | apply fk_ite_pins
      | apply fk_ite
  case h_4 =>
    cases h
    exact fk_fetch _ _ _ (by simp only [bank_SA, bank_SAD, bank_SALD, bank_SD, bank_WR, bank_RD, bank_VPA, bank_VDA])

theorem op_65_fetch (step : Nat) (c : w65816_t) (pins : Nat) (r : w65816_t × Nat)
    (h25 : pins.testBit 25 = false) (h26 : pins.testBit 26 = false)
    (h : op_65 step c pins = some r) : fetch_ok pins r := by
  unfold op_65 at h
  split at h
  case h_4 => exact Option.noConfusion h
  case h_1 =>
    cases h
    exact fk_vda _ _ _ (by simp only [vda_SA, vda_SAD, vda_SALD, vda_SD, vda_SAL, vda_SB, vda_WR, vda_RD, vda_VPA, testBit_ite, snd_ite, h26, ite_self])
  case h_2 =>
    cases h
    exact fk_vpa _ _ _ (by simp only [vpa_SA, vpa_SAD, vpa_SALD, vpa_SD, vpa_SAL, vpa_SB, vpa_WR, vpa_RD, vpa_VDA, testBit_ite, snd_ite, h25, ite_self])
  case h_3 =>
    cases h
    exact fk_fetch _ _ _ (by simp only [bank_SA, bank_SAD, bank_SALD, bank_SD, bank_WR, bank_RD, bank_VPA, bank_VDA])

theorem op_66_fetch (step : Nat) (c : w65816_t) (pins : Nat) (r : w65816_t × Nat)
    (h25 : pins.testBit 25 = false) (h26 : pins.testBit 26 = false)
    (h : op_66 step c pins = some r) : fetch_ok pins r := by
  unfold op_66 at h
  split at h
  case h_6 => exact Option.noConfusion h
  case h_1 =>
    cases h
    exact fk_vda _ _ _ (by simp only [vda_SA, vda_SAD, vda_SALD, vda_SD, vda_SAL, vda_SB, vda_WR, vda_RD, vda_VPA, testBit_ite, snd_ite, h26, ite_self])
  case h_2 | h_3 | h_4 =>
    cases h
    exact fk_vpa _ _ _ (by simp only [vpa_SA, vpa_SAD, vpa_SALD, vpa_SD, vpa_SAL, vpa_SB, vpa_WR, vpa_RD, vpa_VDA, testBit_ite, snd_ite, h25, ite_self])
  case h_5 =>
    cases h
    exact fk_fetch _ _ _ (by simp only [bank_SA, bank_SAD, bank_SALD, bank_SD, bank_WR, bank_RD, bank_VPA, bank_VDA])

theorem op_67_fetch (step : Nat) (c : w65816_t) (pins : Nat) (r : w65816_t × Nat)
    (h25 : pins.testBit 25 = false) (h26 : pins.testBit 26 = false)
    (h : op_67 step c pins = some r) : fetch_ok pins r := by
  unfold op_67 at h
  split at h
  case h_4 => exact Option.noConfusion h
  case h_1 | h_2 =>
    cases h
    exact fk_vpa _ _ _ (by simp only [vpa_SA, vpa_SAD, vpa_SALD, vpa_SD, vpa_SAL, vpa_SB, vpa_WR, vpa_RD, vpa_VDA, testBit_ite, snd_ite, h25, ite_self])
  case h_3 =>
    cases h
    exact fk_fetch _ _ _ (by simp only [bank_SA, bank_SAD, bank_SALD, bank_SD, bank_WR, bank_RD, bank_VPA, bank_VDA])

theorem op_68_fetch (step : Nat) (c : w65816_t) (pins : Nat) (r : w65816_t × Nat)
    (h25 : pins.testBit 25 = false) (h26 : pins.testBit 26 = false)
    (h : op_68 step c pins = some r) : fetch_ok pins r := by
  unfold op_68 at h
  split at h
  case h_5 => exact Option.noConfusion h
  case h_1 | h_2 | h_3 =>
    cases h
    exact fk_vpa _ _ _ (by simp only [vpa_SA, vpa_SAD, vpa_SALD, vpa_SD, vpa_SAL, vpa_SB, vpa_WR, vpa_RD, vpa_VDA, testBit_ite, snd_ite, h25, ite_self])
  case h_4 =>
    cases h
    exact fk_fetch _ _ _ (by simp only [bank_SA, bank_SAD, bank_SALD, bank_SD, bank_WR, bank_RD, bank_VPA, bank_VDA])

theorem op_69_fetch (step : Nat) (c : w65816_t) (pins : Nat) (r : w65816_t × Nat)
    (h25 : pins.testBit 25 = false) (h26 : pins.testBit 26 = false)
    (h : op_69 step c pins = some r) : fetch_ok pins r := by
  unfold op_69 at h
  split at h
  case h_3 => exact Option.noConfusion h
  case h_1 =>
    cases h
    exact fk_vda _ _ _ (by simp only [vda_SA, vda_SAD, vda_SALD, vda_SD, vda_SAL, vda_SB, vda_WR, vda_RD, vda_VPA, testBit_ite, snd_ite, h26, ite_self])
  case h_2 =>
    cases h
    exact fk_fetch _ _ _ (by simp only [bank_SA, bank_SAD, bank_SALD, bank_SD, bank_WR, bank_RD, bank_VPA, bank_VDA])

theorem op_6A_fetch (step : Nat) (c : w65816_t) (pins : Nat) (r : w65816_t × Nat)
    (h25 : pins.testBit 25 = false) (h26 : pins.testBit 26 = false)
    (h : op_6A step c pins = some r) : fetch_ok pins r := by
  unfold op_6A at h
  split at h
  case h_3 => exact Option.noConfusion h
  case h_1 =>
    cases h
    exact fk_vpa _ _ _ (by simp only [vpa_SA, vpa_SAD, vpa_SALD, vpa_SD, vpa_SAL, vpa_SB, vpa_WR, vpa_RD, vpa_VDA, testBit_ite, snd_ite, h25, ite_self])
  case h_2 =>
    cases h
    exact fk_fetch _ _ _ (by simp only [bank_SA, bank_SAD, bank_SALD, bank_SD, bank_WR, bank_RD, bank_VPA, bank_VDA])

theorem op_6B_fetch (step : Nat) (c : w65816_t) (pins : Nat) (r : w65816_t × Nat)
    (h25 : pins.testBit 25 = false) (h26 : pins.testBit 26 = false)
    (h : op_6B step c pins = some r) : fetch_ok pins r := by
  unfold op_6B at h
  split at h
  case h_3 => exact Option.noConfusion h
  case h_1 =>
    cases h
    exact fk_vpa _ _ _ (by simp only [vpa_SA, vpa_SAD, vpa_SALD, vpa_SD, vpa_SAL, vpa_SB, vpa_WR, vpa_RD, vpa_VDA, testBit_ite, snd_ite, h25, ite_self])
  case h_2 =>
    cases h
    exact fk_fetch _ _ _ (by simp only [bank_SA, bank_SAD, bank_SALD, bank_SD, bank_WR, bank_RD, bank_VPA, bank_VDA])

theorem op_6C_fetch (step : Nat) (c : w65816_t) (pins : Nat) (r : w65816_t × Nat)
    (h25 : pins.testBit 25 = false) (h26 : pins.testBit 26 = false)
    (h : op_6C step c pins = some r) : fetch_ok pins r := by
  unfold op_6C at h
  split at h
  case h_6 => exact Option.noConfusion h
  case h_1 | h_2 =>
    cases h
    exact fk_vda _ _ _ (by simp only [vda_SA, vda_SAD, vda_SALD, vda_SD, vda_SAL, vda_SB, vda_WR, vda_RD, vda_VPA, testBit_ite, snd_ite, h26, ite_self])
  case h_3 | h_4 =>
    cases h
    exact fk_vpa _ _ _ (by simp only [vpa_SA, vpa_SAD, vpa_SALD, vpa_SD, vpa_SAL, vpa_SB, vpa_WR, vpa_RD, vpa_VDA, testBit_ite, snd_ite, h25, ite_self])
  case h_5 =>
    cases h
    exact fk_fetch _ _ _ (by simp only [bank_SA, bank_SAD, bank_SALD, bank_SD, bank_WR, bank_RD, bank_VPA, bank_VDA])

theorem op_6D_fetch (step : Nat) (c : w65816_t) (pins : Nat) (r : w65816_t × Nat)
    (h25 : pins.testBit 25 = false) (h26 : pins.testBit 26 = false)
    (h : op_6D step c pins = some r) : fetch_ok pins r := by
  unfold op_6D at h
  split at h
  case h_5 => exact Option.noConfusion h
  case h_1 | h_2 =>
    cases h
    exact fk_vda _ _ _ (by simp only [vda_SA, vda_SAD, vda_SALD, vda_SD, vda_SAL, vda_SB, vda_WR, vda_RD, vda_VPA, testBit_ite, snd_ite, h26, ite_self])
  case h_3 =>
    cases h
    exact fk_vpa _ _ _ (by simp only [vpa_SA, vpa_SAD, vpa_SALD, vpa_SD, vpa_SAL, vpa_SB, vpa_WR, vpa_RD, vpa_VDA, testBit_ite, snd_ite, h25, ite_self])
  case h_4 =>
    cases h
    exact fk_fetch _ _ _ (by simp only [bank_SA, bank_SAD, bank_SALD, bank_SD, bank_WR, bank_RD, bank_VPA, bank_VDA])

theorem op_6E_fetch (step : Nat) (c : w65816_t) (pins : Nat) (r : w65816_t × Nat)
    (h25 : pins.testBit 25 = false) (h26 : pins.testBit 26 = false)
    (h : op_6E step c pins = some r) : fetch_ok pins r := by
  unfold op_6E at h
  split at h
  case h_7 => exact Option.noConfusion h
  case h_1 | h_2 =>
    cases h
    exact fk_vda _ _ _ (by simp only [vda_SA, vda_SAD, vda_SALD, vda_SD, vda_SAL, vda_SB, vda_WR, vda_RD, vda_VPA, testBit_ite, snd_ite, h26, ite_self])
  case h_3 | h_4 | h_5 =>
    cases h
    exact fk_vpa _ _ _ (by simp only [vpa_SA, vpa_SAD, vpa_SALD, vpa_SD, vpa_SAL, vpa_SB, vpa_WR, vpa_RD, vpa_VDA, testBit_ite, snd_ite, h25, ite_self])
  case h_6 =>
    cases h
    exact fk_fetch _ _ _ (by simp only [bank_SA, bank_SAD, bank_SALD, bank_SD, bank_WR, bank_RD, bank_VPA, bank_VDA])

theorem op_6F_fetch (step : Nat) (c : w65816_t) (pins : Nat) (r : w65816_t × Nat)
    (h25 : pins.testBit 25 = false) (h26 : pins.testBit 26 = false)
    (h : op_6F step c pins = some r) : fetch_ok pins r := by
  unfold op_6F at h
  split at h
  case h_4 => exact Option.noConfusion h
  case h_1 | h_2 =>
    cases h
    exact fk_vpa _ _ _ (by simp only [vpa_SA, vpa_SAD, vpa_SALD, vpa_SD, vpa_SAL, vpa_SB, vpa_WR, vpa_RD, vpa_VDA, testBit_ite, snd_ite, h25, ite_self])
  case h_3 =>
    cases h
    exact fk_fetch _ _ _ (by simp only [bank_SA, bank_SAD, bank_SALD, bank_SD, bank_WR, bank_RD, bank_VPA, bank_VDA])

theorem op_70_fetch (step : Nat) (c : w65816_t) (pins : Nat) (r : w65816_t × Nat)
    (h25 : pins.testBit 25 = false) (h26 : pins.testBit 26 = false)
    (h : op_70 step c pins = some r) : fetch_ok pins r := by
  unfold op_70 at h
  split at h
  case h_5 => exact Option.noConfusion h
  case h_1 =>
    cases h
    exact fk_vda _ _ _ (by simp only [vda_SA, vda_SAD, vda_SALD, vda_SD, vda_SAL, vda_SB, vda_WR, vda_RD, vda_VPA, testBit_ite, snd_ite, h26, ite_self])
  case h_2 | h_3 =>
    cases h
    repeat' first
      | (refine fk_fetch _ _ _ ?_; simp only [bank_SA, bank_SAD, bank_SALD, bank_SD, bank_WR, bank_RD, bank_VPA, bank_VDA]; done)
      | (refine fk_vpa _ _ _ ?_; simp only [vpa_SA, vpa_SAD, vpa_SALD, vpa_SD, vpa_SAL, vpa_SB, vpa_WR, vpa_RD, vpa_VDA, testBit_ite, snd_ite, h25, ite_self]; done)
      | (refine fk_vda _ _ _ ?_; simp only [vda_SA, vda_SAD, vda_SALD, vda_SD, vda_SAL, vda_SB, vda_WR, vda_RD, vda_VPA, testBit_ite, snd_ite, h26, ite_self]; done)
      | apply fk_ite_pair
      | apply fk_ite_pins
      | apply fk_ite
  case h_4 =>
    cases h
    exact fk_fetch _ _ _ (by simp only [bank_SA, bank_SAD, bank_SALD, bank_SD, bank_WR, bank_RD, bank_VPA, bank_VDA])

theorem op_71_fetch (step : Nat) (c : w65816_t) (pins : Nat) (r : w65816_t × Nat)
    (h25 : pins.testBit 25 = false) (h26 : pins.testBit 26 = false)
    (h : op_71 step c pins = some r) : fetch_ok pins r := by
  unfold op_71 at h
  split at h
  case h_7 => exact Option.noConfusion h
  case h_1 =>
    cases h
    exact fk_vda _ _ _ (by simp only [vda_SA, vda_SAD, vda_SALD, vda_SD, vda_SAL, vda_SB, vda_WR, vda_RD, vda_VPA, testBit_ite, snd_ite, h26, ite_self])
  case h_2 | h_3 | h_4 | h_5 =>
    cases h
    exact fk_vpa _ _ _ (by simp only [vpa_SA, vpa_SAD, vpa_SALD, vpa_SD, vpa_SAL, vpa_SB, vpa_WR, vpa_RD, vpa_VDA, testBit_ite, snd_ite, h25, ite_self])
  case h_6 =>
    cases h
    exact fk_fetch _ _ _ (by simp only [bank_SA, bank_SAD, bank_SALD, bank_SD, bank_WR, bank_RD, bank_VPA, bank_VDA])

theorem op_72_fetch (step : Nat) (c : w65816_t) (pins : Nat) (r : w65816_t × Nat)
    (h25 : pins.testBit 25 = false) (h26 : pins.testBit 26 = false)
    (h : op_72 step c pins = some r) : fetch_ok pins r := by
  unfold op_72 at h
  split at h
  case h_4 => exact Option.noConfusion h
  case h_1 | h_2 =>
    cases h
    exact fk_vpa _ _ _ (by simp only [vpa_SA, vpa_SAD, vpa_SALD, vpa_SD, vpa_SAL, vpa_SB, vpa_WR, vpa_RD, vpa_VDA, testBit_ite, snd_ite, h25, ite_self])
  case h_3 =>
    cases h
    exact fk_fetch _ _ _ (by simp only [bank_SA, bank_SAD, bank_SALD, bank_SD, bank_WR, bank_RD, bank_VPA, bank_VDA])

theorem op_73_fetch (step : Nat) (c : w65816_t) (pins : Nat) (r : w65816_t × Nat)
    (h25 : pins.testBit 25 = false) (h26 : pins.testBit 26 = false)
    (h : op_73 step c pins = some r) : fetch_ok pins r := by
  unfold op_73 at h
  split at h
  case h_4 => exact Option.noConfusion h
  case h_1 | h_2 =>
    cases h
    exact fk_vpa _ _ _ (by simp only [vpa_SA, vpa_SAD, vpa_SALD, vpa_SD, vpa_SAL, vpa_SB, vpa_WR, vpa_RD, vpa_VDA, testBit_ite, snd_ite, h25, ite_self])
  case h_3 =>
    cases h
    exact fk_fetch _ _ _ (by simp only [bank_SA, bank_SAD, bank_SALD, bank_SD, bank_WR, bank_RD, bank_VPA, bank_VDA])

theorem op_74_fetch (step : Nat) (c : w65816_t) (pins : Nat) (r : w65816_t × Nat)
    (h25 : pins.testBit 25 = false) (h26 : pins.testBit 26 = false)
    (h : op_74 step c pins = some r) : fetch_ok pins r := by
  unfold op_74 at h
  split at h
  case h_6 => exact Option.noConfusion h
  case h_1 =>
    cases h
    exact fk_vda _ _ _ (by simp only [vda_SA, vda_SAD, vda_SALD, vda_SD, vda_SAL, vda_SB, vda_WR, vda_RD, vda_VPA, testBit_ite, snd_ite, h26, ite_self])
  case h_2 | h_3 =>
    cases h
    exact fk_vpa _ _ _ (by simp only [vpa_SA, vpa_SAD, vpa_SALD, vpa_SD, vpa_SAL, vpa_SB, vpa_WR, vpa_RD, vpa_VDA, testBit_ite, snd_ite, h25, ite_self])
  case h_4 =>
    cases h
    repeat' first
      | (refine fk_fetch _ _ _ ?_; simp only [bank_SA, bank_SAD, bank_SALD, bank_SD, bank_WR, bank_RD, bank_VPA, bank_VDA]; done)
      | (refine fk_vpa _ _ _ ?_; simp only [vpa_SA, vpa_SAD, vpa_SALD, vpa_SD, vpa_SAL, vpa_SB, vpa_WR, vpa_RD, vpa_VDA, testBit_ite, snd_ite, h25, ite_self]; done)
      | (refine fk_vda _ _ _ ?_; simp only [vda_SA, vda_SAD, vda_SALD, vda_SD, vda_SAL, vda_SB, vda_WR, vda_RD, vda_VPA, testBit_ite, snd_ite, h26, ite_self]; done)
      | apply fk_ite_pair
      | apply fk_ite_pins
      | apply fk_ite
  case h_5 =>
    cases h
    exact fk_fetch _ _ _ (by simp only [bank_SA, bank_SAD, bank_SALD, bank_SD, bank_WR, bank_RD, bank_VPA, bank_VDA])

theorem op_75_fetch (step : Nat) (c : w65816_t) (pins : Nat) (r : w65816_t × Nat)
    (h25 : pins.testBit 25 = false) (h26 : pins.testBit 26 = false)
    (h : op_75 step c pins = some r) : fetch_ok pins r := by
  unfold op_75 at h
  split at h
  case h_5 => exact Option.noConfusion h
  case h_1 =>
    cases h
    exact fk_vda _ _ _ (by simp only [vda_SA, vda_SAD, vda_SALD, vda_SD, vda_SAL, vda_SB, vda_WR, vda_RD, vda_VPA, testBit_ite, snd_ite, h26, ite_self])
  case h_2 | h_3 =>
    cases h
    exact fk_vpa _ _ _ (by simp only [vpa_SA, vpa_SAD, vpa_SALD, vpa_SD, vpa_SAL, vpa_SB, vpa_WR, vpa_RD, vpa_VDA, testBit_ite, snd_ite, h25, ite_self])
  case h_4 =>
    cases h
    exact fk_fetch _ _ _ (by simp only [bank_SA, bank_SAD, bank_SALD, bank_SD, bank_WR, bank_RD, bank_VPA, bank_VDA])

theorem op_76_fetch (step : Nat) (c : w65816_t) (pins : Nat) (r : w65816_t × Nat)
    (h25 : pins.testBit 25 = false) (h26 : pins.testBit 26 = false)
    (h : op_76 step c pins = some r) : fetch_ok pins r := by
  unfold op_76 at h
  split at h
  case h_7 => exact Option.noConfusion h
  case h_1 =>
    cases h
    exact fk_vda _ _ _ (by simp only [vda_SA, vda_SAD, vda_SALD, vda_SD, vda_SAL, vda_SB, vda_WR, vda_RD, vda_VPA, testBit_ite, snd_ite, h26, ite_self])
  case h_2 | h_3 | h_4 | h_5 =>
    cases h
    exact fk_vpa _ _ _ (by simp only [vpa_SA, vpa_SAD, vpa_SALD, vpa_SD, vpa_SAL, vpa_SB, vpa_WR, vpa_RD, vpa_VDA, testBit_ite, snd_ite, h25, ite_self])
  case h_6 =>
    cases h
    exact fk_fetch _ _ _ (by simp only [bank_SA, bank_SAD, bank_SALD, bank_SD, bank_WR, bank_RD, bank_VPA, bank_VDA])

theorem op_77_fetch (step : Nat) (c : w65816_t) (pins : Nat) (r : w65816_t × Nat)
    (h25 : pins.testBit 25 = false) (h26 : pins.testBit 26 = false)
    (h : op_77 step c pins = some r) : fetch_ok pins r := by
  unfold op_77 at h
  split at h
  case h_4 => exact Option.noConfusion h
  case h_1 | h_2 =>
    cases h
    exact fk_vpa _ _ _ (by simp only [vpa_SA, vpa_SAD, vpa_SALD, vpa_SD, vpa_SAL, vpa_SB, vpa_WR, vpa_RD, vpa_VDA, testBit_ite, snd_ite, h25, ite_self])
  case h_3 =>
    cases h
    exact fk_fetch _ _ _ (by simp only [bank_SA, bank_SAD, bank_SALD, bank_SD, bank_WR, bank_RD, bank_VPA, bank_VDA])

theorem op_78_fetch (step : Nat) (c : w65816_t) (pins : Nat) (r : w65816_t × Nat)
    (h25 : pins.testBit 25 = false) (h26 : pins.testBit 26 = false)
    (h : op_78 step c pins = some r) : fetch_ok pins r := by
  unfold op_78 at h
  split at h
  case h_3 => exact Option.noConfusion h
  case h_1 =>
    cases h
    exact fk_vpa _ _ _ (by simp only [vpa_SA, vpa_SAD, vpa_SALD, vpa_SD, vpa_SAL, vpa_SB, vpa_WR, vpa_RD, vpa_VDA, testBit_ite, snd_ite, h25, ite_self])
  case h_2 =>
    cases h
    exact fk_fetch _ _ _ (by simp only [bank_SA, bank_SAD, bank_SALD, bank_SD, bank_WR, bank_RD, bank_VPA, bank_VDA])

theorem op_79_fetch (step : Nat) (c : w65816_t) (pins : Nat) (r : w65816_t × Nat)
    (h25 : pins.testBit 25 = false) (h26 : pins.testBit 26 = false)
    (h : op_79 step c pins = some r) : fetch_ok pins r := by
  unfold op_79 at h
  split at h
  case h_6 => exact Option.noConfusion h
  case h_1 | h_2 =>
    cases h
    exact fk_vda _ _ _ (by simp only [vda_SA, vda_SAD, vda_SALD, vda_SD, vda_SAL, vda_SB, vda_WR, vda_RD, vda_VPA, testBit_ite, snd_ite, h26, ite_self])
  case h_3 | h_4 =>
    cases h
    exact fk_vpa _ _ _ (by simp only [vpa_SA, vpa_SAD, vpa_SALD, vpa_SD, vpa_SAL, vpa_SB, vpa_WR, vpa_RD, vpa_VDA, testBit_ite, snd_ite, h25, ite_self])
  case h_5 =>
    cases h
    exact fk_fetch _ _ _ (by simp only [bank_SA, bank_SAD, bank_SALD, bank_SD, bank_WR, bank_RD, bank_VPA, bank_VDA])

theorem op_7A_fetch (step : Nat) (c : w65816_t) (pins : Nat) (r : w65816_t × Nat)
    (h25 : pins.testBit 25 = false) (h26 : pins.testBit 26 = false)
    (h : op_7A step c pins = some r) : fetch_ok pins r := by
  unfold op_7A at h
  split at h
  case h_5 => exact Option.noConfusion h
  case h_1 | h_2 | h_3 =>
    cases h
    exact fk_vpa _ _ _ (by simp only [vpa_SA, vpa_SAD, vpa_SALD, vpa_SD, vpa_SAL, vpa_SB, vpa_WR, vpa_RD, vpa_VDA, testBit_ite, snd_ite, h25, ite_self])
  case h_4 =>
    cases h
    exact fk_fetch _ _ _ (by simp only [bank_SA, bank_SAD, bank_SALD, bank_SD, bank_WR, bank_RD, bank_VPA, bank_VDA])

theorem op_7B_fetch (step : Nat) (c : w65816_t) (pins : Nat) (r : w65816_t × Nat)
    (h25 : pins.testBit 25 = false) (h26 : pins.testBit 26 = false)
    (h : op_7B step c pins = some r) : fetch_ok pins r := by
  unfold op_7B at h
  split at h
  case h_3 => exact Option.noConfusion h
  case h_1 =>
    cases h
    exact fk_vpa _ _ _ (by simp only [vpa_SA, vpa_SAD, vpa_SALD, vpa_SD, vpa_SAL, vpa_SB, vpa_WR, vpa_RD, vpa_VDA, testBit_ite, snd_ite, h25, ite_self])
  case h_2 =>
    cases h
    exact fk_fetch _ _ _ (by simp only [bank_SA, bank_SAD, bank_SALD, bank_SD, bank_WR, bank_RD, bank_VPA, bank_VDA])

theorem op_7C_fetch (step : Nat) (c : w65816_t) (pins : Nat) (r : w65816_t × Nat)
    (h25 : pins.testBit 25 = false) (h26 : pins.testBit 26 = false)
    (h : op_7C step c pins = some r) : fetch_ok pins r := by
  unfold op_7C at h
  split at h
  case h_6 => exact Option.noConfusion h
  case h_1 | h_2 =>
    cases h
    exact fk_vda _ _ _ (by simp only [vda_SA, vda_SAD, vda_SALD, vda_SD, vda_SAL, vda_SB, vda_WR, vda_RD, vda_VPA, testBit_ite, snd_ite, h26, ite_self])
  case h_3 | h_4 =>
    cases h
    exact fk_vpa _ _ _ (by simp only [vpa_SA, vpa_SAD, vpa_SALD, vpa_SD, vpa_SAL, vpa_SB, vpa_WR, vpa_RD, vpa_VDA, testBit_ite, snd_ite, h25, ite_self])
  case h_5 =>
    cases h
    exact fk_fetch _ _ _ (by simp only [bank_SA, bank_SAD, bank_SALD, bank_SD, bank_WR, bank_RD, bank_VPA, bank_VDA])

theorem op_7D_fetch (step : Nat) (c : w65816_t) (pins : Nat) (r : w65816_t × Nat)
    (h25 : pins.testBit 25 = false) (h26 : pins.testBit 26 = false)
    (h : op_7D step c pins = some r) : fetch_ok pins r := by
  unfold op_7D at h
  split at h
  case h_6 => exact Option.noConfusion h
  case h_1 | h_2 =>
    cases h
    exact fk_vda _ _ _ (by simp only [vda_SA, vda_SAD, vda_SALD, vda_SD, vda_SAL, vda_SB, vda_WR, vda_RD, vda_VPA, testBit_ite, snd_ite, h26, ite_self])
  case h_3 | h_4 =>
    cases h
    exact fk_vpa _ _ _ (by simp only [vpa_SA, vpa_SAD, vpa_SALD, vpa_SD, vpa_SAL, vpa_SB, vpa_WR, vpa_RD, vpa_VDA, testBit_ite, snd_ite, h25, ite_self])
  case h_5 =>
    cases h
    exact fk_fetch _ _ _ (by simp only [bank_SA, bank_SAD, bank_SALD, bank_SD, bank_WR, bank_RD, bank_VPA, bank_VDA])

theorem op_7E_fetch (step : Nat) (c : w65816_t) (pins : Nat) (r : w65816_t × Nat)
    (h25 : pins.testBit 25 = false) (h26 : pins.testBit 26 = false)
    (h : op_7E step c pins = some r) : fetch_ok pins r := by
  unfold op_7E at h
  split at h
  case h_8 => exact Option.noConfusion h
  case h_1 | h_2 =>
    cases h
    exact fk_vda _ _ _ (by simp only [vda_SA, vda_SAD, vda_SALD, vda_SD, vda_SAL, vda_SB, vda_WR, vda_RD, vda_VPA, testBit_ite, snd_ite, h26, ite_self])
  case h_3 | h_4 | h_5 | h_6 =>
    cases h
    exact fk_vpa _ _ _ (by simp only [vpa_SA, vpa_SAD, vpa_SALD, vpa_SD, vpa_SAL, vpa_SB, vpa_WR, vpa_RD, vpa_VDA, testBit_ite, snd_ite, h25, ite_self])
  case h_7 =>
    cases h
    exact fk_fetch _ _ _ (by simp only [bank_SA, bank_SAD, bank_SALD, bank_SD, bank_WR, bank_RD, bank_VPA, bank_VDA])

theorem op_7F_fetch (step : Nat) (c : w65816_t) (pins : Nat) (r : w65816_t × Nat)
    (h25 : pins.testBit 25 = false) (h26 : pins.testBit 26 = false)
    (h : op_7F step c pins = some r) : fetch_ok pins r := by
  unfold op_7F at h
  split at h
  case h_4 => exact Option.noConfusion h
  case h_1 | h_2 =>
    cases h
    exact fk_vpa _ _ _ (by simp only [vpa_SA, vpa_SAD, vpa_SALD, vpa_SD, vpa_SAL, vpa_SB, vpa_WR, vpa_RD, vpa_VDA, testBit_ite, snd_ite, h25, ite_self])
  case h_3 =>
    cases h
    exact fk_fetch _ _ _ (by simp only [bank_SA, bank_SAD, bank_SALD, bank_SD, bank_WR, bank_RD, bank_VPA, bank_VDA])

theorem op_80_fetch (step : Nat) (c : w65816_t) (pins : Nat) (r : w65816_t × Nat)
    (h25 : pins.testBit 25 = false) (h26 : pins.testBit 26 = false)
    (h : op_80 step c pins = some r) : fetch_ok pins r := by
  unfold op_80 at h
  split at h
  case h_5 => exact Option.noConfusion h
  case h_1 =>
    cases h
    exact fk_vda _ _ _ (by simp only [vda_SA, vda_SAD, vda_SALD, vda_SD, vda_SAL, vda_SB, vda_WR, vda_RD, vda_VPA, testBit_ite, snd_ite, h26, ite_self])
  case h_2 =>
    cases h
    exact fk_vpa _ _ _ (by simp only [vpa_SA, vpa_SAD, vpa_SALD, vpa_SD, vpa_SAL, vpa_SB, vpa_WR, vpa_RD, vpa_VDA, testBit_ite, snd_ite, h25, ite_self])
  case h_3 =>
    cases h
    repeat' first
      | (refine fk_fetch _ _ _ ?_; simp only [bank_SA, bank_SAD, bank_SALD, bank_SD, bank_WR, bank_RD, bank_VPA, bank_VDA]; done)
      | (refine fk_vpa _ _ _ ?_; simp only [vpa_SA, vpa_SAD, vpa_SALD, vpa_SD, vpa_SAL, vpa_SB, vpa_WR, vpa_RD, vpa_VDA, testBit_ite, snd_ite, h25, ite_self]; done)
      | (refine fk_vda _ _ _ ?_; simp only [vda_SA, vda_SAD, vda_SALD, vda_SD, vda_SAL, vda_SB, vda_WR, vda_RD, vda_VPA, testBit_ite, snd_ite, h26, ite_self]; done)
      | apply fk_ite_pair
      | apply fk_ite_pins
      | apply fk_ite
  case h_4 =>
    cases h
    exact fk_fetch _ _ _ (by simp only [bank_SA, bank_SAD, bank_SALD, bank_SD, bank_WR, bank_RD, bank_VPA, bank_VDA])

theorem op_81_fetch (step : Nat) (c : w65816_t) (pins : Nat) (r : w65816_t × Nat)
    (h25 : pins.testBit 25 = false) (h26 : pins.testBit 26 = false)
    (h : op_81 step c pins = some r) : fetch_ok pins r := by
  unfold op_81 at h
  split at h
  case h_8 => exact Option.noConfusion h
  case h_1 =>
    cases h
    exact fk_vda _ _ _ (by simp only [vda_SA, vda_SAD, vda_SALD, vda_SD, vda_SAL, vda_SB, vda_WR, vda_RD, vda_VPA, testBit_ite, snd_ite, h26, ite_self])
  case h_2 | h_3 | h_4 | h_5 =>
    cases h
    exact fk_vpa _ _ _ (by simp only [vpa_SA, vpa_SAD, vpa_SALD, vpa_SD, vpa_SAL, vpa_SB, vpa_WR, vpa_RD, vpa_VDA, testBit_ite, snd_ite, h25, ite_self])
  case h_6 =>
    cases h
    repeat' first
      | (refine fk_fetch _ _ _ ?_; simp only [bank_SA, bank_SAD, bank_SALD, bank_SD, bank_WR, bank_RD, bank_VPA, bank_VDA]; done)
      | (refine fk_vpa _ _ _ ?_; simp only [vpa_SA, vpa_SAD, vpa_SALD, vpa_SD, vpa_SAL, vpa_SB, vpa_WR, vpa_RD, vpa_VDA, testBit_ite, snd_ite, h25, ite_self]; done)
      | (refine fk_vda _ _ _ ?_; simp only [vda_SA, vda_SAD, vda_SALD, vda_SD, vda_SAL, vda_SB, vda_WR, vda_RD, vda_VPA, testBit_ite, snd_ite, h26, ite_self]; done)
      | apply fk_ite_pair
      | apply fk_ite_pins
      | apply fk_ite
  case h_7 =>
    cases h
    exact fk_fetch _ _ _ (by simp only [bank_SA, bank_SAD, bank_SALD, bank_SD, bank_WR, bank_RD, bank_VPA, bank_VDA])

theorem op_82_fetch (step : Nat) (c : w65816_t) (pins : Nat) (r : w65816_t × Nat)
    (h25 : pins.testBit 25 = false) (h26 : pins.testBit 26 = false)
    (h : op_82 step c pins = some r) : fetch_ok pins r := by
  unfold op_82 at h
  split at h
  case h_2 => exact Option.noConfusion h
  case h_1 =>
    cases h
    exact fk_fetch _ _ _ (by simp only [bank_SA, bank_SAD, bank_SALD, bank_SD, bank_WR, bank_RD, bank_VPA, bank_VDA])

theorem op_83_fetch (step : Nat) (c : w65816_t) (pins : Nat) (r : w65816_t × Nat)
    (h25 : pins.testBit 25 = false) (h26 : pins.testBit 26 = false)
    (h : op_83 step c pins = some r) : fetch_ok pins r := by
  unfold op_83 at h
  split at h
  case h_4 => exact Option.noConfusion h
  case h_1 =>
    cases h
    exact fk_vpa _ _ _ (by simp only [vpa_SA, vpa_SAD, vpa_SALD, vpa_SD, vpa_SAL, vpa_SB, vpa_WR, vpa_RD, vpa_VDA, testBit_ite, snd_ite, h25, ite_self])
  case h_2 =>
    cases h
    repeat' first
      | (refine fk_fetch _ _ _ ?_; simp only [bank_SA, bank_SAD, bank_SALD, bank_SD, bank_WR, bank_RD, bank_VPA, bank_VDA]; done)
      | (refine fk_vpa _ _ _ ?_; simp only [vpa_SA, vpa_SAD, vpa_SALD, vpa_SD, vpa_SAL, vpa_SB, vpa_WR, vpa_RD, vpa_VDA, testBit_ite, snd_ite, h25, ite_self]; done)
      | (refine fk_vda _ _ _ ?_; simp only [vda_SA, vda_SAD, vda_SALD, vda_SD, vda_SAL, vda_SB, vda_WR, vda_RD, vda_VPA, testBit_ite, snd_ite, h26, ite_self]; done)
      | apply fk_ite_pair
      | apply fk_ite_pins
      | apply fk_ite
  case h_3 =>
    cases h
    exact fk_fetch _ _ _ (by simp only [bank_SA, bank_SAD, bank_SALD, bank_SD, bank_WR, bank_RD, bank_VPA, bank_VDA])

theorem op_84_fetch (step : Nat) (c : w65816_t) (pins : Nat) (r : w65816_t × Nat)
    (h25 : pins.testBit 25 = false) (h26 : pins.testBit 26 = false)
    (h : op_84 step c pins = some r) : fetch_ok pins r := by
  unfold op_84 at h
  split at h
  case h_5 => exact Option.noConfusion h
  case h_1 =>
    cases h
    exact fk_vda _ _ _ (by simp only [vda_SA, vda_SAD, vda_SALD, vda_SD, vda_SAL, vda_SB, vda_WR, vda_RD, vda_VPA, testBit_ite, snd_ite, h26, ite_self])
  case h_2 =>
    cases h
    exact fk_vpa _ _ _ (by simp only [vpa_SA, vpa_SAD, vpa_SALD, vpa_SD, vpa_SAL, vpa_SB, vpa_WR, vpa_RD, vpa_VDA, testBit_ite, snd_ite, h25, ite_self])
  case h_3 =>
    cases h
    repeat' first
      | (refine fk_fetch _ _ _ ?_; simp only [bank_SA, bank_SAD, bank_SALD, bank_SD, bank_WR, bank_RD, bank_VPA, bank_VDA]; done)
      | (refine fk_vpa _ _ _ ?_; simp only [vpa_SA, vpa_SAD, vpa_SALD, vpa_SD, vpa_SAL, vpa_SB, vpa_WR, vpa_RD, vpa_VDA, testBit_ite, snd_ite, h25, ite_self]; done)
      | (refine fk_vda _ _ _ ?_; simp only [vda_SA, vda_SAD, vda_SALD, vda_SD, vda_SAL, vda_SB, vda_WR, vda_RD, vda_VPA, testBit_ite, snd_ite, h26, ite_self]; done)
      | apply fk_ite_pair
      | apply fk_ite_pins
      | apply fk_ite
  case h_4 =>
    cases h
    exact fk_fetch _ _ _ (by simp only [bank_SA, bank_SAD, bank_SALD, bank_SD, bank_WR, bank_RD, bank_VPA, bank_VDA])

theorem op_85_fetch (step : Nat) (c : w65816_t) (pins : Nat) (r : w65816_t × Nat)
    (h25 : pins.testBit 25 = false) (h26 : pins.testBit 26 = false)
    (h : op_85 step c pins = some r) : fetch_ok pins r := by
  unfold op_85 at h
  split at h
  case h_5 => exact Option.noConfusion h
  case h_1 =>
    cases h
    exact fk_vda _ _ _ (by simp only [vda_SA, vda_SAD, vda_SALD, vda_SD, vda_SAL, vda_SB, vda_WR, vda_RD, vda_VPA, testBit_ite, snd_ite, h26, ite_self])
  case h_2 =>
    cases h
    exact fk_vpa _ _ _ (by simp only [vpa_SA, vpa_SAD, vpa_SALD, vpa_SD, vpa_SAL, vpa_SB, vpa_WR, vpa_RD, vpa_VDA, testBit_ite, snd_ite, h25, ite_self])
  case h_3 =>
    cases h
    repeat' first
      | (refine fk_fetch _ _ _ ?_; simp only [bank_SA, bank_SAD, bank_SALD, bank_SD, bank_WR, bank_RD, bank_VPA, bank_VDA]; done)
      | (refine fk_vpa _ _ _ ?_; simp only [vpa_SA, vpa_SAD, vpa_SALD, vpa_SD, vpa_SAL, vpa_SB, vpa_WR, vpa_RD, vpa_VDA, testBit_ite, snd_ite, h25, ite_self]; done)
      | (refine fk_vda _ _ _ ?_; simp only [vda_SA, vda_SAD, vda_SALD, vda_SD, vda_SAL, vda_SB, vda_WR, vda_RD, vda_VPA, testBit_ite, snd_ite, h26, ite_self]; done)
      | apply fk_ite_pair
      | apply fk_ite_pins
      | apply fk_ite
  case h_4 =>
    cases h
    exact fk_fetch _ _ _ (by simp only [bank_SA, bank_SAD, bank_SALD, bank_SD, bank_WR, bank_RD, bank_VPA, bank_VDA])

theorem op_86_fetch (step : Nat) (c : w65816_t) (pins : Nat) (r : w65816_t × Nat)
    (h25 : pins.testBit 25 = false) (h26 : pins.testBit 26 = false)
    (h : op_86 step c pins = some r) : fetch_ok pins r := by
  unfold op_86 at h
  split at h
  case h_5 => exact Option.noConfusion h
  case h_1 =>
    cases h
    exact fk_vda _ _ _ (by simp only [vda_SA, vda_SAD, vda_SALD, vda_SD, vda_SAL, vda_SB, vda_WR, vda_RD, vda_VPA, testBit_ite, snd_ite, h26, ite_self])
  case h_2 =>
    cases h
    exact fk_vpa _ _ _ (by simp only [vpa_SA, vpa_SAD, vpa_SALD, vpa_SD, vpa_SAL, vpa_SB, vpa_WR, vpa_RD, vpa_VDA, testBit_ite, snd_ite, h25, ite_self])
  case h_3 =>
    cases h
    repeat' first
      | (refine fk_fetch _ _ _ ?_; simp only [bank_SA, bank_SAD, bank_SALD, bank_SD, bank_WR, bank_RD, bank_VPA, bank_VDA]; done)
      | (refine fk_vpa _ _ _ ?_; simp only [vpa_SA, vpa_SAD, vpa_SALD, vpa_SD, vpa_SAL, vpa_SB, vpa_WR, vpa_RD, vpa_VDA, testBit_ite, snd_ite, h25, ite_self]; done)
      | (refine fk_vda _ _ _ ?_; simp only [vda_SA, vda_SAD, vda_SALD, vda_SD, vda_SAL, vda_SB, vda_WR, vda_RD, vda_VPA, testBit_ite, snd_ite, h26, ite_self]; done)
      | apply fk_ite_pair
      | apply fk_ite_pins
      | apply fk_ite
  case h_4 =>
    cases h
    exact fk_fetch _ _ _ (by simp only [bank_SA, bank_SAD, bank_SALD, bank_SD, bank_WR, bank_RD, bank_VPA, bank_VDA])

theorem op_87_fetch (step : Nat) (c : w65816_t) (pins : Nat) (r : w65816_t × Nat)
    (h25 : pins.testBit 25 = false) (h26 : pins.testBit 26 = false)
    (h : op_87 step c pins = some r) : fetch_ok pins r := by
  unfold op_87 at h
  split at h
  case h_4 => exact Option.noConfusion h
  case h_1 =>
    cases h
    exact fk_vpa _ _ _ (by simp only [vpa_SA, vpa_SAD, vpa_SALD, vpa_SD, vpa_SAL, vpa_SB, vpa_WR, vpa_RD, vpa_VDA, testBit_ite, snd_ite, h25, ite_self])
  case h_2 =>
    cases h
    repeat' first
      | (refine fk_fetch _ _ _ ?_; simp only [bank_SA, bank_SAD, bank_SALD, bank_SD, bank_WR, bank_RD, bank_VPA, bank_VDA]; done)
      | (refine fk_vpa _ _ _ ?_; simp only [vpa_SA, vpa_SAD, vpa_SALD, vpa_SD, vpa_SAL, vpa_SB, vpa_WR, vpa_RD, vpa_VDA, testBit_ite, snd_ite, h25, ite_self]; done)
      | (refine fk_vda _ _ _ ?_; simp only [vda_SA, vda_SAD, vda_SALD, vda_SD, vda_SAL, vda_SB, vda_WR, vda_RD, vda_VPA, testBit_ite, snd_ite, h26, ite_self]; done)
      | apply fk_ite_pair
      | apply fk_ite_pins
      | apply fk_ite
  case h_3 =>
    cases h
    exact fk_fetch _ _ _ (by simp only [bank_SA, bank_SAD, bank_SALD, bank_SD, bank_WR, bank_RD, bank_VPA, bank_VDA])

theorem op_88_fetch (step : Nat) (c : w65816_t) (pins : Nat) (r : w65816_t × Nat)
    (h25 : pins.testBit 25 = false) (h26 : pins.testBit 26 = false)
    (h : op_88 step c pins = some r) : fetch_ok pins r := by
  unfold op_88 at h
  split at h
  case h_3 => exact Option.noConfusion h
  case h_1 =>
    cases h
    exact fk_vpa _ _ _ (by simp only [vpa_SA, vpa_SAD, vpa_SALD, vpa_SD, vpa_SAL, vpa_SB, vpa_WR, vpa_RD, vpa_VDA, testBit_ite, snd_ite, h25, ite_self])
  case h_2 =>
    cases h
    exact fk_fetch _ _ _ (by simp only [bank_SA, bank_SAD, bank_SALD, bank_SD, bank_WR, bank_RD, bank_VPA, bank_VDA])

theorem op_89_fetch (step : Nat) (c : w65816_t) (pins : Nat) (r : w65816_t × Nat)
    (h25 : pins.testBit 25 = false) (h26 : pins.testBit 26 = false)
    (h : op_89 step c pins = some r) : fetch_ok pins r := by
  unfold op_89 at h
  split at h
  case h_3 => exact Option.noConfusion h
  case h_1 =>
    cases h
    exact fk_vda _ _ _ (by simp only [vda_SA, vda_SAD, vda_SALD, vda_SD, vda_SAL, vda_SB, vda_WR, vda_RD, vda_VPA, testBit_ite, snd_ite, h26, ite_self])
  case h_2 =>
    cases h
    exact fk_fetch _ _ _ (by simp only [bank_SA, bank_SAD, bank_SALD, bank_SD, bank_WR, bank_RD, bank_VPA, bank_VDA])

theorem op_8A_fetch (step : Nat) (c : w65816_t) (pins : Nat) (r : w65816_t × Nat)
    (h25 : pins.testBit 25 = false) (h26 : pins.testBit 26 = false)
    (h : op_8A step c pins = some r) : fetch_ok pins r := by
  unfold op_8A at h
  split at h
  case h_3 => exact Option.noConfusion h
  case h_1 =>
    cases h
    exact fk_vpa _ _ _ (by simp only [vpa_SA, vpa_SAD, vpa_SALD, vpa_SD, vpa_SAL, vpa_SB, vpa_WR, vpa_RD, vpa_VDA, testBit_ite, snd_ite, h25, ite_self])
  case h_2 =>
    cases h
    exact fk_fetch _ _ _ (by simp only [bank_SA, bank_SAD, bank_SALD, bank_SD, bank_WR, bank_RD, bank_VPA, bank_VDA])

theorem op_8B_fetch (step : Nat) (c : w65816_t) (pins : Nat) (r : w65816_t × Nat)
    (h25 : pins.testBit 25 = false) (h26 : pins.testBit 26 = false)
    (h : op_8B step c pins = some r) : fetch_ok pins r := by
  unfold op_8B at h
  split at h
  case h_4 => exact Option.noConfusion h
  case h_1 | h_2 =>
    cases h
    exact fk_vpa _ _ _ (by simp only [vpa_SA, vpa_SAD, vpa_SALD, vpa_SD, vpa_SAL, vpa_SB, vpa_WR, vpa_RD, vpa_VDA, testBit_ite, snd_ite, h25, ite_self])
  case h_3 =>
    cases h
    exact fk_fetch _ _ _ (by simp only [bank_SA, bank_SAD, bank_SALD, bank_SD, bank_WR, bank_RD, bank_VPA, bank_VDA])

theorem op_8C_fetch (step : Nat) (c : w65816_t) (pins : Nat) (r : w65816_t × Nat)
    (h25 : pins.testBit 25 = false) (h26 : pins.testBit 26 = false)
    (h : op_8C step c pins = some r) : fetch_ok pins r := by
  unfold op_8C at h
  split at h
  case h_6 => exact Option.noConfusion h
  case h_1 | h_2 =>
    cases h
    exact fk_vda _ _ _ (by simp only [vda_SA, vda_SAD, vda_SALD, vda_SD, vda_SAL, vda_SB, vda_WR, vda_RD, vda_VPA, testBit_ite, snd_ite, h26, ite_self])
  case h_3 =>
    cases h
    exact fk_vpa _ _ _ (by simp only [vpa_SA, vpa_SAD, vpa_SALD, vpa_SD, vpa_SAL, vpa_SB, vpa_WR, vpa_RD, vpa_VDA, testBit_ite, snd_ite, h25, ite_self])
  case h_4 =>
    cases h
    repeat' first
      | (refine fk_fetch _ _ _ ?_; simp only [bank_SA, bank_SAD, bank_SALD, bank_SD, bank_WR, bank_RD, bank_VPA, bank_VDA]; done)
      | (refine fk_vpa _ _ _ ?_; simp only [vpa_SA, vpa_SAD, vpa_SALD, vpa_SD, vpa_SAL, vpa_SB, vpa_WR, vpa_RD, vpa_VDA, testBit_ite, snd_ite, h25, ite_self]; done)
      | (refine fk_vda _ _ _ ?_; simp only [vda_SA, vda_SAD, vda_SALD, vda_SD, vda_SAL, vda_SB, vda_WR, vda_RD, vda_VPA, testBit_ite, snd_ite, h26, ite_self]; done)
      | apply fk_ite_pair
      | apply fk_ite_pins
      | apply fk_ite
  case h_5 =>
    cases h
    exact fk_fetch _ _ _ (by simp only [bank_SA, bank_SAD, bank_SALD, bank_SD, bank_WR, bank_RD, bank_VPA, bank_VDA])

theorem op_8D_fetch (step : Nat) (c : w65816_t) (pins : Nat) (r : w65816_t × Nat)
    (h25 : pins.testBit 25 = false) (h26 : pins.testBit 26 = false)
    (h : op_8D step c pins = some r) : fetch_ok pins r := by
  unfold op_8D at h
  split at h
  case h_6 => exact Option.noConfusion h
  case h_1 | h_2 =>
    cases h
    exact fk_vda _ _ _ (by simp only [vda_SA, vda_SAD, vda_SALD, vda_SD, vda_SAL, vda_SB, vda_WR, vda_RD, vda_VPA, testBit_ite, snd_ite, h26, ite_self])
  case h_3 =>
    cases h
    exact fk_vpa _ _ _ (by simp only [vpa_SA, vpa_SAD, vpa_SALD, vpa_SD, vpa_SAL, vpa_SB, vpa_WR, vpa_RD, vpa_VDA, testBit_ite, snd_ite, h25, ite_self])
  case h_4 =>
    cases h
    repeat' first
      | (refine fk_fetch _ _ _ ?_; simp only [bank_SA, bank_SAD, bank_SALD, bank_SD, bank_WR, bank_RD, bank_VPA, bank_VDA]; done)
      | (refine fk_vpa _ _ _ ?_; simp only [vpa_SA, vpa_SAD, vpa_SALD, vpa_SD, vpa_SAL, vpa_SB, vpa_WR, vpa_RD, vpa_VDA, testBit_ite, snd_ite, h25, ite_self]; done)
      | (refine fk_vda _ _ _ ?_; simp only [vda_SA, vda_SAD, vda_SALD, vda_SD, vda_SAL, vda_SB, vda_WR, vda_RD, vda_VPA, testBit_ite, snd_ite, h26, ite_self]; done)
      | apply fk_ite_pair
      | apply fk_ite_pins
      | apply fk_ite
  case h_5 =>
    cases h
    exact fk_fetch _ _ _ (by simp only [bank_SA, bank_SAD, bank_SALD, bank_SD, bank_WR, bank_RD, bank_VPA, bank_VDA])

theorem op_8E_fetch (step : Nat) (c : w65816_t) (pins : Nat) (r : w65816_t × Nat)
    (h25 : pins.testBit 25 = false) (h26 : pins.testBit 26 = false)
    (h : op_8E step c pins = some r) : fetch_ok pins r := by
  unfold op_8E at h
  split at h
  case h_6 => exact Option.noConfusion h
  case h_1 | h_2 =>
    cases h
    exact fk_vda _ _ _ (by simp only [vda_SA, vda_SAD, vda_SALD, vda_SD, vda_SAL, vda_SB, vda_WR, vda_RD, vda_VPA, testBit_ite, snd_ite, h26, ite_self])
  case h_3 =>
    cases h
    exact fk_vpa _ _ _ (by simp only [vpa_SA, vpa_SAD, vpa_SALD, vpa_SD, vpa_SAL, vpa_SB, vpa_WR, vpa_RD, vpa_VDA, testBit_ite, snd_ite, h25, ite_self])
  case h_4 =>
    cases h
    repeat' first
      | (refine fk_fetch _ _ _ ?_; simp only [bank_SA, bank_SAD, bank_SALD, bank_SD, bank_WR, bank_RD, bank_VPA, bank_VDA]; done)
      | (refine fk_vpa _ _ _ ?_; simp only [vpa_SA, vpa_SAD, vpa_SALD, vpa_SD, vpa_SAL, vpa_SB, vpa_WR, vpa_RD, vpa_VDA, testBit_ite, snd_ite, h25, ite_self]; done)
      | (refine fk_vda _ _ _ ?_; simp only [vda_SA, vda_SAD, vda_SALD, vda_SD, vda_SAL, vda_SB, vda_WR, vda_RD, vda_VPA, testBit_ite, snd_ite, h26, ite_self]; done)
      | apply fk_ite_pair
      | apply fk_ite_pins
      | apply fk_ite
  case h_5 =>
    cases h
    exact fk_fetch _ _ _ (by simp only [bank_SA, bank_SAD, bank_SALD, bank_SD, bank_WR, bank_RD, bank_VPA, bank_VDA])

theorem op_8F_fetch (step : Nat) (c : w65816_t) (pins : Nat) (r : w65816_t × Nat)
    (h25 : pins.testBit 25 = false) (h26 : pins.testBit 26 = false)
    (h : op_8F step c pins = some r) : fetch_ok pins r := by
  unfold op_8F at h
  split at h
  case h_4 => exact Option.noConfusion h
  case h_1 =>
    cases h
    exact fk_vpa _ _ _ (by simp only [vpa_SA, vpa_SAD, vpa_SALD, vpa_SD, vpa_SAL, vpa_SB, vpa_WR, vpa_RD, vpa_VDA, testBit_ite, snd_ite, h25, ite_self])
  case h_2 =>
    cases h
    repeat' first
      | (refine fk_fetch _ _ _ ?_; simp only [bank_SA, bank_SAD, bank_SALD, bank_SD, bank_WR, bank_RD, bank_VPA, bank_VDA]; done)
      | (refine fk_vpa _ _ _ ?_; simp only [vpa_SA, vpa_SAD, vpa_SALD, vpa_SD, vpa_SAL, vpa_SB, vpa_WR, vpa_RD, vpa_VDA, testBit_ite, snd_ite, h25, ite_self]; done)
      | (refine fk_vda _ _ _ ?_; simp only [vda_SA, vda_SAD, vda_SALD, vda_SD, vda_SAL, vda_SB, vda_WR, vda_RD, vda_VPA, testBit_ite, snd_ite, h26, ite_self]; done)
      | apply fk_ite_pair
      | apply fk_ite_pins
      | apply fk_ite
  case h_3 =>
    cases h
    exact fk_fetch _ _ _ (by simp only [bank_SA, bank_SAD, bank_SALD, bank_SD, bank_WR, bank_RD, bank_VPA, bank_VDA])

theorem op_90_fetch (step : Nat) (c : w65816_t) (pins : Nat) (r : w65816_t × Nat)
    (h25 : pins.testBit 25 = false) (h26 : pins.testBit 26 = false)
    (h : op_90 step c pins = some r) : fetch_ok pins r := by
  unfold op_90 at h
  split at h
  case h_5 => exact Option.noConfusion h
  case h_1 =>
    cases h
    exact fk_vda _ _ _ (by simp only [vda_SA, vda_SAD, vda_SALD, vda_SD, vda_SAL, vda_SB, vda_WR, vda_RD, vda_VPA, testBit_ite, snd_ite, h26, ite_self])
  case h_2 | h_3 =>
    cases h
    repeat' first
      | (refine fk_fetch _ _ _ ?_; simp only [bank_SA, bank_SAD, bank_SALD, bank_SD, bank_WR, bank_RD, bank_VPA, bank_VDA]; done)
      | (refine fk_vpa _ _ _ ?_; simp only [vpa_SA, vpa_SAD, vpa_SALD, vpa_SD, vpa_SAL, vpa_SB, vpa_WR, vpa_RD, vpa_VDA, testBit_ite, snd_ite, h25, ite_self]; done)
      | (refine fk_vda _ _ _ ?_; simp only [vda_SA, vda_SAD, vda_SALD, vda_SD, vda_SAL, vda_SB, vda_WR, vda_RD, vda_VPA, testBit_ite, snd_ite, h26, ite_self]; done)
      | apply fk_ite_pair
      | apply fk_ite_pins
      | apply fk_ite
  case h_4 =>
    cases h
    exact fk_fetch _ _ _ (by simp only [bank_SA, bank_SAD, bank_SALD, bank_SD, bank_WR, bank_RD, bank_VPA, bank_VDA])

theorem op_91_fetch (step : Nat) (c : w65816_t) (pins : Nat) (r : w65816_t × Nat)
    (h25 : pins.testBit 25 = false) (h26 : pins.testBit 26 = false)
    (h : op_91 step c pins = some r) : fetch_ok pins r := by
  unfold op_91 at h
  split at h
  case h_8 => exact Option.noConfusion h
  case h_1 =>
    cases h
    exact fk_vda _ _ _ (by simp only [vda_SA, vda_SAD, vda_SALD, vda_SD, vda_SAL, vda_SB, vda_WR, vda_RD, vda_VPA, testBit_ite, snd_ite, h26, ite_self])
  case h_2 | h_3 | h_4 | h_5 =>
    cases h
    exact fk_vpa _ _ _ (by simp only [vpa_SA, vpa_SAD, vpa_SALD, vpa_SD, vpa_SAL, vpa_SB, vpa_WR, vpa_RD, vpa_VDA, testBit_ite, snd_ite, h25, ite_self])
  case h_6 =>
    cases h
    repeat' first
      | (refine fk_fetch _ _ _ ?_; simp only [bank_SA, bank_SAD, bank_SALD, bank_SD, bank_WR, bank_RD, bank_VPA, bank_VDA]; done)
      | (refine fk_vpa _ _ _ ?_; simp only [vpa_SA, vpa_SAD, vpa_SALD, vpa_SD, vpa_SAL, vpa_SB, vpa_WR, vpa_RD, vpa_VDA, testBit_ite, snd_ite, h25, ite_self]; done)
      | (refine fk_vda _ _ _ ?_; simp only [vda_SA, vda_SAD, vda_SALD, vda_SD, vda_SAL, vda_SB, vda_WR, vda_RD, vda_VPA, testBit_ite, snd_ite, h26, ite_self]; done)
      | apply fk_ite_pair
      | apply fk_ite_pins
      | apply fk_ite
  case h_7 =>
    cases h
    exact fk_fetch _ _ _ (by simp only [bank_SA, bank_SAD, bank_SALD, bank_SD, bank_WR, bank_RD, bank_VPA, bank_VDA])

theorem op_92_fetch (step : Nat) (c : w65816_t) (pins : Nat) (r : w65816_t × Nat)
    (h25 : pins.testBit 25 = false) (h26 : pins.testBit 26 = false)
    (h : op_92 step c pins = some r) : fetch_ok pins r := by
  unfold op_92 at h
  split at h
  case h_4 => exact Option.noConfusion h
  case h_1 =>
    cases h
    exact fk_vpa _ _ _ (by simp only [vpa_SA, vpa_SAD, vpa_SALD, vpa_SD, vpa_SAL, vpa_SB, vpa_WR, vpa_RD, vpa_VDA, testBit_ite, snd_ite, h25, ite_self])
  case h_2 =>
    cases h
    repeat' first
      | (refine fk_fetch _ _ _ ?_; simp only [bank_SA, bank_SAD, bank_SALD, bank_SD, bank_WR, bank_RD, bank_VPA, bank_VDA]; done)
      | (refine fk_vpa _ _ _ ?_; simp only [vpa_SA, vpa_SAD, vpa_SALD, vpa_SD, vpa_SAL, vpa_SB, vpa_WR, vpa_RD, vpa_VDA, testBit_ite, snd_ite, h25, ite_self]; done)
      | (refine fk_vda _ _ _ ?_; simp only [vda_SA, vda_SAD, vda_SALD, vda_SD, vda_SAL, vda_SB, vda_WR, vda_RD, vda_VPA, testBit_ite, snd_ite, h26, ite_self]; done)
      | apply fk_ite_pair
      | apply fk_ite_pins
      | apply fk_ite
  case h_3 =>
    cases h
    exact fk_fetch _ _ _ (by simp only [bank_SA, bank_SAD, bank_SALD, bank_SD, bank_WR, bank_RD, bank_VPA, bank_VDA])

theorem op_93_fetch (step : Nat) (c : w65816_t) (pins : Nat) (r : w65816_t × Nat)
    (h25 : pins.testBit 25 = false) (h26 : pins.testBit 26 = false)
    (h : op_93 step c pins = some r) : fetch_ok pins r := by
  unfold op_93 at h
  split at h
  case h_4 => exact Option.noConfusion h
  case h_1 =>
    cases h
    exact fk_vpa _ _ _ (by simp only [vpa_SA, vpa_SAD, vpa_SALD, vpa_SD, vpa_SAL, vpa_SB, vpa_WR, vpa_RD, vpa_VDA, testBit_ite, snd_ite, h25, ite_self])
  case h_2 =>
    cases h
    repeat' first
      | (refine fk_fetch _ _ _ ?_; simp only [bank_SA, bank_SAD, bank_SALD, bank_SD, bank_WR, bank_RD, bank_VPA, bank_VDA]; done)
      | (refine fk_vpa _ _ _ ?_; simp only [vpa_SA, vpa_SAD, vpa_SALD, vpa_SD, vpa_SAL, vpa_SB, vpa_WR, vpa_RD, vpa_VDA, testBit_ite, snd_ite, h25, ite_self]; done)
      | (refine fk_vda _ _ _ ?_; simp only [vda_SA, vda_SAD, vda_SALD, vda_SD, vda_SAL, vda_SB, vda_WR, vda_RD, vda_VPA, testBit_ite, snd_ite, h26, ite_self]; done)
      | apply fk_ite_pair
      | apply fk_ite_pins
      | apply fk_ite
  case h_3 =>
    cases h
    exact fk_fetch _ _ _ (by simp only [bank_SA, bank_SAD, bank_SALD, bank_SD, bank_WR, bank_RD, bank_VPA, bank_VDA])

theorem op_94_fetch (step : Nat) (c : w65816_t) (pins : Nat) (r : w65816_t × Nat)
    (h25 : pins.testBit 25 = false) (h26 : pins.testBit 26 = false)
    (h : op_94 step c pins = some r) : fetch_ok pins r := by
  unfold op_94 at h
  split at h
  case h_6 => exact Option.noConfusion h
  case h_1 =>
    cases h
    exact fk_vda _ _ _ (by simp only [vda_SA, vda_SAD, vda_SALD, vda_SD, vda_SAL, vda_SB, vda_WR, vda_RD, vda_VPA, testBit_ite, snd_ite, h26, ite_self])
  case h_2 | h_3 =>
    cases h
    exact fk_vpa _ _ _ (by simp only [vpa_SA, vpa_SAD, vpa_SALD, vpa_SD, vpa_SAL, vpa_SB, vpa_WR, vpa_RD, vpa_VDA, testBit_ite, snd_ite, h25, ite_self])
  case h_4 =>
    cases h
    repeat' first
      | (refine fk_fetch _ _ _ ?_; simp only [bank_SA, bank_SAD, bank_SALD, bank_SD, bank_WR, bank_RD, bank_VPA, bank_VDA]; done)
      | (refine fk_vpa _ _ _ ?_; simp only [vpa_SA, vpa_SAD, vpa_SALD, vpa_SD, vpa_SAL, vpa_SB, vpa_WR, vpa_RD, vpa_VDA, testBit_ite, snd_ite, h25, ite_self]; done)
      | (refine fk_vda _ _ _ ?_; simp only [vda_SA, vda_SAD, vda_SALD, vda_SD, vda_SAL, vda_SB, vda_WR, vda_RD, vda_VPA, testBit_ite, snd_ite, h26, ite_self]; done)
      | apply fk_ite_pair
      | apply fk_ite_pins
      | apply fk_ite
  case h_5 =>
    cases h
    exact fk_fetch _ _ _ (by simp only [bank_SA, bank_SAD, bank_SALD, bank_SD, bank_WR, bank_RD, bank_VPA, bank_VDA])

theorem op_95_fetch (step : Nat) (c : w65816_t) (pins : Nat) (r : w65816_t × Nat)
    (h25 : pins.testBit 25 = false) (h26 : pins.testBit 26 = false)
    (h : op_95 step c pins = some r) : fetch_ok pins r := by
  unfold op_95 at h
  split at h
  case h_6 => exact Option.noConfusion h
  case h_1 =>
    cases h
    exact fk_vda _ _ _ (by simp only [vda_SA, vda_SAD, vda_SALD, vda_SD, vda_SAL, vda_SB, vda_WR, vda_RD, vda_VPA, testBit_ite, snd_ite, h26, ite_self])
  case h_2 | h_3 =>
    cases h
    exact fk_vpa _ _ _ (by simp only [vpa_SA, vpa_SAD, vpa_SALD, vpa_SD, vpa_SAL, vpa_SB, vpa_WR, vpa_RD, vpa_VDA, testBit_ite, snd_ite, h25, ite_self])
  case h_4 =>
    cases h
    repeat' first
      | (refine fk_fetch _ _ _ ?_; simp only [bank_SA, bank_SAD, bank_SALD, bank_SD, bank_WR, bank_RD, bank_VPA, bank_VDA]; done)
      | (refine fk_vpa _ _ _ ?_; simp only [vpa_SA, vpa_SAD, vpa_SALD, vpa_SD, vpa_SAL, vpa_SB, vpa_WR, vpa_RD, vpa_VDA, testBit_ite, snd_ite, h25, ite_self]; done)
      | (refine fk_vda _ _ _ ?_; simp only [vda_SA, vda_SAD, vda_SALD, vda_SD, vda_SAL, vda_SB, vda_WR, vda_RD, vda_VPA, testBit_ite, snd_ite, h26, ite_self]; done)
      | apply fk_ite_pair
      | apply fk_ite_pins
      | apply fk_ite
  case h_5 =>
    cases h
    exact fk_fetch _ _ _ (by simp only [bank_SA, bank_SAD, bank_SALD, bank_SD, bank_WR, bank_RD, bank_VPA, bank_VDA])

theorem op_96_fetch (step : Nat) (c : w65816_t) (pins : Nat) (r : w65816_t × Nat)
    (h25 : pins.testBit 25 = false) (h26 : pins.testBit 26 = false)
    (h : op_96 step c pins = some r) : fetch_ok pins r := by
  unfold op_96 at h
  split at h
  case h_6 => exact Option.noConfusion h
  case h_1 =>
    cases h
    exact fk_vda _ _ _ (by simp only [vda_SA, vda_SAD, vda_SALD, vda_SD, vda_SAL, vda_SB, vda_WR, vda_RD, vda_VPA, testBit_ite, snd_ite, h26, ite_self])
  case h_2 | h_3 =>
    cases h
    exact fk_vpa _ _ _ (by simp only [vpa_SA, vpa_SAD, vpa_SALD, vpa_SD, vpa_SAL, vpa_SB, vpa_WR, vpa_RD, vpa_VDA, testBit_ite, snd_ite, h25, ite_self])
  case h_4 =>
    cases h
    repeat' first
      | (refine fk_fetch _ _ _ ?_; simp only [bank_SA, bank_SAD, bank_SALD, bank_SD, bank_WR, bank_RD, bank_VPA, bank_VDA]; done)
      | (refine fk_vpa _ _ _ ?_; simp only [vpa_SA, vpa_SAD, vpa_SALD, vpa_SD, vpa_SAL, vpa_SB, vpa_WR, vpa_RD, vpa_VDA, testBit_ite, snd_ite, h25, ite_self]; done)
      | (refine fk_vda _ _ _ ?_; simp only [vda_SA, vda_SAD, vda_SALD, vda_SD, vda_SAL, vda_SB, vda_WR, vda_RD, vda_VPA, testBit_ite, snd_ite, h26, ite_self]; done)
      | apply fk_ite_pair
      | apply fk_ite_pins
      | apply fk_ite
  case h_5 =>
    cases h
    exact fk_fetch _ _ _ (by simp only [bank_SA, bank_SAD, bank_SALD, bank_SD, bank_WR, bank_RD, bank_VPA, bank_VDA])

theorem op_97_fetch (step : Nat) (c : w65816_t) (pins : Nat) (r : w65816_t × Nat)
    (h25 : pins.testBit 25 = false) (h26 : pins.testBit 26 = false)
    (h : op_97 step c pins = some r) : fetch_ok pins r := by
  unfold op_97 at h
  split at h
  case h_4 => exact Option.noConfusion h
  case h_1 =>
    cases h
    exact fk_vpa _ _ _ (by simp only [vpa_SA, vpa_SAD, vpa_SALD, vpa_SD, vpa_SAL, vpa_SB, vpa_WR, vpa_RD, vpa_VDA, testBit_ite, snd_ite, h25, ite_self])
  case h_2 =>
    cases h
    repeat' first
      | (refine fk_fetch _ _ _ ?_; simp only [bank_SA, bank_SAD, bank_SALD, bank_SD, bank_WR, bank_RD, bank_VPA, bank_VDA]; done)
      | (refine fk_vpa _ _ _ ?_; simp only [vpa_SA, vpa_SAD, vpa_SALD, vpa_SD, vpa_SAL, vpa_SB, vpa_WR, vpa_RD, vpa_VDA, testBit_ite, snd_ite, h25, ite_self]; done)
      | (refine fk_vda _ _ _ ?_; simp only [vda_SA, vda_SAD, vda_SALD, vda_SD, vda_SAL, vda_SB, vda_WR, vda_RD, vda_VPA, testBit_ite, snd_ite, h26, ite_self]; done)
      | apply fk_ite_pair
      | apply fk_ite_pins
      | apply fk_ite
  case h_3 =>
    cases h
    exact fk_fetch _ _ _ (by simp only [bank_SA, bank_SAD, bank_SALD, bank_SD, bank_WR, bank_RD, bank_VPA, bank_VDA])

theorem op_98_fetch (step : Nat) (c : w65816_t) (pins : Nat) (r : w65816_t × Nat)
    (h25 : pins.testBit 25 = false) (h26 : pins.testBit 26 = false)
    (h : op_98 step c pins = some r) : fetch_ok pins r := by
  unfold op_98 at h
  split at h
  case h_3 => exact Option.noConfusion h
  case h_1 =>
    cases h
    exact fk_vpa _ _ _ (by simp only [vpa_SA, vpa_SAD, vpa_SALD, vpa_SD, vpa_SAL, vpa_SB, vpa_WR, vpa_RD, vpa_VDA, testBit_ite, snd_ite, h25, ite_self])
  case h_2 =>
    cases h
    exact fk_fetch _ _ _ (by simp only [bank_SA, bank_SAD, bank_SALD, bank_SD, bank_WR, bank_RD, bank_VPA, bank_VDA])

theorem op_99_fetch (step : Nat) (c : w65816_t) (pins : Nat) (r : w65816_t × Nat)
    (h25 : pins.testBit 25 = false) (h26 : pins.testBit 26 = false)
    (h : op_99 step c pins = some r) : fetch_ok pins r := by
  unfold op_99 at h
  split at h
  case h_7 => exact Option.noConfusion h
  case h_1 | h_2 =>
    cases h
    exact fk_vda _ _ _ (by simp only [vda_SA, vda_SAD, vda_SALD, vda_SD, vda_SAL, vda_SB, vda_WR, vda_RD, vda_VPA, testBit_ite, snd_ite, h26, ite_self])
  case h_3 | h_4 =>
    cases h
    exact fk_vpa _ _ _ (by simp only [vpa_SA, vpa_SAD, vpa_SALD, vpa_SD, vpa_SAL, vpa_SB, vpa_WR, vpa_RD, vpa_VDA, testBit_ite, snd_ite, h25, ite_self])
  case h_5 =>
    cases h
    repeat' first
      | (refine fk_fetch _ _ _ ?_; simp only [bank_SA, bank_SAD, bank_SALD, bank_SD, bank_WR, bank_RD, bank_VPA, bank_VDA]; done)
      | (refine fk_vpa _ _ _ ?_; simp only [vpa_SA, vpa_SAD, vpa_SALD, vpa_SD, vpa_SAL, vpa_SB, vpa_WR, vpa_RD, vpa_VDA, testBit_ite, snd_ite, h25, ite_self]; done)
      | (refine fk_vda _ _ _ ?_; simp only [vda_SA, vda_SAD, vda_SALD, vda_SD, vda_SAL, vda_SB, vda_WR, vda_RD, vda_VPA, testBit_ite, snd_ite, h26, ite_self]; done)
      | apply fk_ite_pair
      | apply fk_ite_pins
      | apply fk_ite
  case h_6 =>
    cases h
    exact fk_fetch _ _ _ (by simp only [bank_SA, bank_SAD, bank_SALD, bank_SD, bank_WR, bank_RD, bank_VPA, bank_VDA])

theorem op_9A_fetch (step : Nat) (c : w65816_t) (pins : Nat) (r : w65816_t × Nat)
    (h25 : pins.testBit 25 = false) (h26 : pins.testBit 26 = false)
    (h : op_9A step c pins = some r) : fetch_ok pins r := by
  unfold op_9A at h
  split at h
  case h_3 => exact Option.noConfusion h
  case h_1 =>
    cases h
    exact fk_vpa _ _ _ (by simp only [vpa_SA, vpa_SAD, vpa_SALD, vpa_SD, vpa_SAL, vpa_SB, vpa_WR, vpa_RD, vpa_VDA, testBit_ite, snd_ite, h25, ite_self])
  case h_2 =>
    cases h
    exact fk_fetch _ _ _ (by simp only [bank_SA, bank_SAD, bank_SALD, bank_SD, bank_WR, bank_RD, bank_VPA, bank_VDA])

theorem op_9B_fetch (step : Nat) (c : w65816_t) (pins : Nat) (r : w65816_t × Nat)
    (h25 : pins.testBit 25 = false) (h26 : pins.testBit 26 = false)
    (h : op_9B step c pins = some r) : fetch_ok pins r := by
  unfold op_9B at h
  split at h
  case h_3 => exact Option.noConfusion h
  case h_1 =>
    cases h
    exact fk_vpa _ _ _ (by simp only [vpa_SA, vpa_SAD, vpa_SALD, vpa_SD, vpa_SAL, vpa_SB, vpa_WR, vpa_RD, vpa_VDA, testBit_ite, snd_ite, h25, ite_self])
  case h_2 =>
    cases h
    exact fk_fetch _ _ _ (by simp only [bank_SA, bank_SAD, bank_SALD, bank_SD, bank_WR, bank_RD, bank_VPA, bank_VDA])

theorem op_9C_fetch (step : Nat) (c : w65816_t) (pins : Nat) (r : w65816_t × Nat)
    (h25 : pins.testBit 25 = false) (h26 : pins.testBit 26 = false)
    (h : op_9C step c pins = some r) : fetch_ok pins r := by
  unfold op_9C at h
  split at h
  case h_6 => exact Option.noConfusion h
  case h_1 | h_2 =>
    cases h
    exact fk_vda _ _ _ (by simp only [vda_SA, vda_SAD, vda_SALD, vda_SD, vda_SAL, vda_SB, vda_WR, vda_RD, vda_VPA, testBit_ite, snd_ite, h26, ite_self])
  case h_3 =>
    cases h
    exact fk_vpa _ _ _ (by simp only [vpa_SA, vpa_SAD, vpa_SALD, vpa_SD, vpa_SAL, vpa_SB, vpa_WR, vpa_RD, vpa_VDA, testBit_ite, snd_ite, h25, ite_self])
  case h_4 =>
    cases h
    repeat' first
      | (refine fk_fetch _ _ _ ?_; simp only [bank_SA, bank_SAD, bank_SALD, bank_SD, bank_WR, bank_RD, bank_VPA, bank_VDA]; done)
      | (refine fk_vpa _ _ _ ?_; simp only [vpa_SA, vpa_SAD, vpa_SALD, vpa_SD, vpa_SAL, vpa_SB, vpa_WR, vpa_RD, vpa_VDA, testBit_ite, snd_ite, h25, ite_self]; done)
      | (refine fk_vda _ _ _ ?_; simp only [vda_SA, vda_SAD, vda_SALD, vda_SD, vda_SAL, vda_SB, vda_WR, vda_RD, vda_VPA, testBit_ite, snd_ite, h26, ite_self]; done)
      | apply fk_ite_pair
      | apply fk_ite_pins
      | apply fk_ite
  case h_5 =>
    cases h
    exact fk_fetch _ _ _ (by simp only [bank_SA, bank_SAD, bank_SALD, bank_SD, bank_WR, bank_RD, bank_VPA, bank_VDA])

theorem op_9D_fetch (step : Nat) (c : w65816_t) (pins : Nat) (r : w65816_t × Nat)
    (h25 : pins.testBit 25 = false) (h26 : pins.testBit 26 = false)
    (h : op_9D step c pins = some r) : fetch_ok pins r := by
  unfold op_9D at h
  split at h
  case h_7 => exact Option.noConfusion h
  case h_1 | h_2 =>
    cases h
    exact fk_vda _ _ _ (by simp only [vda_SA, vda_SAD, vda_SALD, vda_SD, vda_SAL, vda_SB, vda_WR, vda_RD, vda_VPA, testBit_ite, snd_ite, h26, ite_self])
  case h_3 | h_4 =>
    cases h
    exact fk_vpa _ _ _ (by simp only [vpa_SA, vpa_SAD, vpa_SALD, vpa_SD, vpa_SAL, vpa_SB, vpa_WR, vpa_RD, vpa_VDA, testBit_ite, snd_ite, h25, ite_self])
  case h_5 =>
    cases h
    repeat' first
      | (refine fk_fetch _ _ _ ?_; simp only [bank_SA, bank_SAD, bank_SALD, bank_SD, bank_WR, bank_RD, bank_VPA, bank_VDA]; done)
      | (refine fk_vpa _ _ _ ?_; simp only [vpa_SA, vpa_SAD, vpa_SALD, vpa_SD, vpa_SAL, vpa_SB, vpa_WR, vpa_RD, vpa_VDA, testBit_ite, snd_ite, h25, ite_self]; done)
      | (refine fk_vda _ _ _ ?_; simp only [vda_SA, vda_SAD, vda_SALD, vda_SD, vda_SAL, vda_SB, vda_WR, vda_RD, vda_VPA, testBit_ite, snd_ite, h26, ite_self]; done)
      | apply fk_ite_pair
      | apply fk_ite_pins
      | apply fk_ite
  case h_6 =>
    cases h
    exact fk_fetch _ _ _ (by simp only [bank_SA, bank_SAD, bank_SALD, bank_SD, bank_WR, bank_RD, bank_VPA, bank_VDA])

theorem op_9E_fetch (step : Nat) (c : w65816_t) (pins : Nat) (r : w65816_t × Nat)
    (h25 : pins.testBit 25 = false) (h26 : pins.testBit 26 = false)
    (h : op_9E step c pins = some r) : fetch_ok pins r := by
  unfold op_9E at h
  split at h
  case h_7 => exact Option.noConfusion h
  case h_1 | h_2 =>
    cases h
    exact fk_vda _ _ _ (by simp only [vda_SA, vda_SAD, vda_SALD, vda_SD, vda_SAL, vda_SB, vda_WR, vda_RD, vda_VPA, testBit_ite, snd_ite, h26, ite_self])
  case h_3 | h_4 =>
    cases h
    exact fk_vpa _ _ _ (by simp only [vpa_SA, vpa_SAD, vpa_SALD, vpa_SD, vpa_SAL, vpa_SB, vpa_WR, vpa_RD, vpa_VDA, testBit_ite, snd_ite, h25, ite_self])
  case h_5 =>
    cases h
    repeat' first
      | (refine fk_fetch _ _ _ ?_; simp only [bank_SA, bank_SAD, bank_SALD, bank_SD, bank_WR, bank_RD, bank_VPA, bank_VDA]; done)
      | (refine fk_vpa _ _ _ ?_; simp only [vpa_SA, vpa_SAD, vpa_SALD, vpa_SD, vpa_SAL, vpa_SB, vpa_WR, vpa_RD, vpa_VDA, testBit_ite, snd_ite, h25, ite_self]; done)
      | (refine fk_vda _ _ _ ?_; simp only [vda_SA, vda_SAD, vda_SALD, vda_SD, vda_SAL, vda_SB, vda_WR, vda_RD, vda_VPA, testBit_ite, snd_ite, h26, ite_self]; done)
      | apply fk_ite_pair
      | apply fk_ite_pins
      | apply fk_ite
  case h_6 =>
    cases h
    exact fk_fetch _ _ _ (by simp only [bank_SA, bank_SAD, bank_SALD, bank_SD, bank_WR, bank_RD, bank_VPA, bank_VDA])

theorem op_9F_fetch (step : Nat) (c : w65816_t) (pins : Nat) (r : w65816_t × Nat)
    (h25 : pins.testBit 25 = false) (h26 : pins.testBit 26 = false)
    (h : op_9F step c pins = some r) : fetch_ok pins r := by
  unfold op_9F at h
  split at h
  case h_4 => exact Option.noConfusion h
  case h_1 =>
    cases h
    exact fk_vpa _ _ _ (by simp only [vpa_SA, vpa_SAD, vpa_SALD, vpa_SD, vpa_SAL, vpa_SB, vpa_WR, vpa_RD, vpa_VDA, testBit_ite, snd_ite, h25, ite_self])
  case h_2 =>
    cases h
    repeat' first
      | (refine fk_fetch _ _ _ ?_; simp only [bank_SA, bank_SAD, bank_SALD, bank_SD, bank_WR, bank_RD, bank_VPA, bank_VDA]; done)
      | (refine fk_vpa _ _ _ ?_; simp only [vpa_SA, vpa_SAD, vpa_SALD, vpa_SD, vpa_SAL, vpa_SB, vpa_WR, vpa_RD, vpa_VDA, testBit_ite, snd_ite, h25, ite_self]; done)
      | (refine fk_vda _ _ _ ?_; simp only [vda_SA, vda_SAD, vda_SALD, vda_SD, vda_SAL, vda_SB, vda_WR, vda_RD, vda_VPA, testBit_ite, snd_ite, h26, ite_self]; done)
      | apply fk_ite_pair
      | apply fk_ite_pins
      | apply fk_ite
  case h_3 =>
    cases h
    exact fk_fetch _ _ _ (by simp only [bank_SA, bank_SAD, bank_SALD, bank_SD, bank_WR, bank_RD, bank_VPA, bank_VDA])

theorem op_A0_fetch (step : Nat) (c : w65816_t) (pins : Nat) (r : w65816_t × Nat)
    (h25 : pins.testBit 25 = false) (h26 : pins.testBit 26 = false)
    (h : op_A0 step c pins = some r) : fetch_ok pins r := by
  unfold op_A0 at h
  split at h
  case h_4 => exact Option.noConfusion h
  case h_1 =>
    cases h
    exact fk_vda _ _ _ (by simp only [vda_SA, vda_SAD, vda_SALD, vda_SD, vda_SAL, vda_SB, vda_WR, vda_RD, vda_VPA, testBit_ite, snd_ite, h26, ite_self])
  case h_2 =>
    cases h
    repeat' first
      | (refine fk_fetch _ _ _ ?_; simp only [bank_SA, bank_SAD, bank_SALD, bank_SD, bank_WR, bank_RD, bank_VPA, bank_VDA]; done)
      | (refine fk_vpa _ _ _ ?_; simp only [vpa_SA, vpa_SAD, vpa_SALD, vpa_SD, vpa_SAL, vpa_SB, vpa_WR, vpa_RD, vpa_VDA, testBit_ite, snd_ite, h25, ite_self]; done)
      | (refine fk_vda _ _ _ ?_; simp only [vda_SA, vda_SAD, vda_SALD, vda_SD, vda_SAL, vda_SB, vda_WR, vda_RD, vda_VPA, testBit_ite, snd_ite, h26, ite_self]; done)
      | apply fk_ite_pair
      | apply fk_ite_pins
      | apply fk_ite
  case h_3 =>
    cases h
    exact fk_fetch _ _ _ (by simp only [bank_SA, bank_SAD, bank_SALD, bank_SD, bank_WR, bank_RD, bank_VPA, bank_VDA])

theorem op_A1_fetch (step : Nat) (c : w65816_t) (pins : Nat) (r : w65816_t × Nat)
    (h25 : pins.testBit 25 = false) (h26 : pins.testBit 26 = false)
    (h : op_A1 step c pins = some r) : fetch_ok pins r := by
  unfold op_A1 at h
  split at h
  case h_8 => exact Option.noConfusion h
  case h_1 =>
    cases h
    exact fk_vda _ _ _ (by simp only [vda_SA, vda_SAD, vda_SALD, vda_SD, vda_SAL, vda_SB, vda_WR, vda_RD, vda_VPA, testBit_ite, snd_ite, h26, ite_self])
  case h_2 | h_3 | h_4 | h_5 =>
    cases h
    exact fk_vpa _ _ _ (by simp only [vpa_SA, vpa_SAD, vpa_SALD, vpa_SD, vpa_SAL, vpa_SB, vpa_WR, vpa_RD, vpa_VDA, testBit_ite, snd_ite, h25, ite_self])
  case h_6 =>
    cases h
    repeat' first
      | (refine fk_fetch _ _ _ ?_; simp only [bank_SA, bank_SAD, bank_SALD, bank_SD, bank_WR, bank_RD, bank_VPA, bank_VDA]; done)
      | (refine fk_vpa _ _ _ ?_; simp only [vpa_SA, vpa_SAD, vpa_SALD, vpa_SD, vpa_SAL, vpa_SB, vpa_WR, vpa_RD, vpa_VDA, testBit_ite, snd_ite, h25, ite_self]; done)
      | (refine fk_vda _ _ _ ?_; simp only [vda_SA, vda_SAD, vda_SALD, vda_SD, vda_SAL, vda_SB, vda_WR, vda_RD, vda_VPA, testBit_ite, snd_ite, h26, ite_self]; done)
      | apply fk_ite_pair
      | apply fk_ite_pins
      | apply fk_ite
  case h_7 =>
    cases h
    exact fk_fetch _ _ _ (by simp only [bank_SA, bank_SAD, bank_SALD, bank_SD, bank_WR, bank_RD, bank_VPA, bank_VDA])

theorem op_A2_fetch (step : Nat) (c : w65816_t) (pins : Nat) (r : w65816_t × Nat)
    (h25 : pins.testBit 25 = false) (h26 : pins.testBit 26 = false)
    (h : op_A2 step c pins = some r) : fetch_ok pins r := by
  unfold op_A2 at h
  split at h
  case h_4 => exact Option.noConfusion h
  case h_1 =>
    cases h
    exact fk_vda _ _ _ (by simp only [vda_SA, vda_SAD, vda_SALD, vda_SD, vda_SAL, vda_SB, vda_WR, vda_RD, vda_VPA, testBit_ite, snd_ite, h26, ite_self])
  case h_2 =>
    cases h
    repeat' first
      | (refine fk_fetch _ _ _ ?_; simp only [bank_SA, bank_SAD, bank_SALD, bank_SD, bank_WR, bank_RD, bank_VPA, bank_VDA]; done)
      | (refine fk_vpa _ _ _ ?_; simp only [vpa_SA, vpa_SAD, vpa_SALD, vpa_SD, vpa_SAL, vpa_SB, vpa_WR, vpa_RD, vpa_VDA, testBit_ite, snd_ite, h25, ite_self]; done)
      | (refine fk_vda _ _ _ ?_; simp only [vda_SA, vda_SAD, vda_SALD, vda_SD, vda_SAL, vda_SB, vda_WR, vda_RD, vda_VPA, testBit_ite, snd_ite, h26, ite_self]; done)
      | apply fk_ite_pair
      | apply fk_ite_pins
      | apply fk_ite
  case h_3 =>
    cases h
    exact fk_fetch _ _ _ (by simp only [bank_SA, bank_SAD, bank_SALD, bank_SD, bank_WR, bank_RD, bank_VPA, bank_VDA])

theorem op_A3_fetch (step : Nat) (c : w65816_t) (pins : Nat) (r : w65816_t × Nat)
    (h25 : pins.testBit 25 = false) (h26 : pins.testBit 26 = false)
    (h : op_A3 step c pins = some r) : fetch_ok pins r := by
  unfold op_A3 at h
  split at h
  case h_4 => exact Option.noConfusion h
  case h_1 =>
    cases h
    exact fk_vpa _ _ _ (by simp only [vpa_SA, vpa_SAD, vpa_SALD, vpa_SD, vpa_SAL, vpa_SB, vpa_WR, vpa_RD, vpa_VDA, testBit_ite, snd_ite, h25, ite_self])
  case h_2 =>
    cases h
    repeat' first
      | (refine fk_fetch _ _ _ ?_; simp only [bank_SA, bank_SAD, bank_SALD, bank_SD, bank_WR, bank_RD, bank_VPA, bank_VDA]; done)
      | (refine fk_vpa _ _ _ ?_; simp only [vpa_SA, vpa_SAD, vpa_SALD, vpa_SD, vpa_SAL, vpa_SB, vpa_WR, vpa_RD, vpa_VDA, testBit_ite, snd_ite, h25, ite_self]; done)
      | (refine fk_vda _ _ _ ?_; simp only [vda_SA, vda_SAD, vda_SALD, vda_SD, vda_SAL, vda_SB, vda_WR, vda_RD, vda_VPA, testBit_ite, snd_ite, h26, ite_self]; done)
      | apply fk_ite_pair
      | apply fk_ite_pins
      | apply fk_ite
  case h_3 =>
    cases h
    exact fk_fetch _ _ _ (by simp only [bank_SA, bank_SAD, bank_SALD, bank_SD, bank_WR, bank_RD, bank_VPA, bank_VDA])

theorem op_A4_fetch (step : Nat) (c : w65816_t) (pins : Nat) (r : w65816_t × Nat)
    (h25 : pins.testBit 25 = false) (h26 : pins.testBit 26 = false)
    (h : op_A4 step c pins = some r) : fetch_ok pins r := by
  unfold op_A4 at h
  split at h
  case h_5 => exact Option.noConfusion h
  case h_1 =>
    cases h
    exact fk_vda _ _ _ (by simp only [vda_SA, vda_SAD, vda_SALD, vda_SD, vda_SAL, vda_SB, vda_WR, vda_RD, vda_VPA, testBit_ite, snd_ite, h26, ite_self])
  case h_2 =>
    cases h
    exact fk_vpa _ _ _ (by simp only [vpa_SA, vpa_SAD, vpa_SALD, vpa_SD, vpa_SAL, vpa_SB, vpa_WR, vpa_RD, vpa_VDA, testBit_ite, snd_ite, h25, ite_self])
  case h_3 =>
    cases h
    repeat' first
      | (refine fk_fetch _ _ _ ?_; simp only [bank_SA, bank_SAD, bank_SALD, bank_SD, bank_WR, bank_RD, bank_VPA, bank_VDA]; done)
      | (refine fk_vpa _ _ _ ?_; simp only [vpa_SA, vpa_SAD, vpa_SALD, vpa_SD, vpa_SAL, vpa_SB, vpa_WR, vpa_RD, vpa_VDA, testBit_ite, snd_ite, h25, ite_self]; done)
      | (refine fk_vda _ _ _ ?_; simp only [vda_SA, vda_SAD, vda_SALD, vda_SD, vda_SAL, vda_SB, vda_WR, vda_RD, vda_VPA, testBit_ite, snd_ite, h26, ite_self]; done)
      | apply fk_ite_pair
      | apply fk_ite_pins
      | apply fk_ite
  case h_4 =>
    cases h
    exact fk_fetch _ _ _ (by simp only [bank_SA, bank_SAD, bank_SALD, bank_SD, bank_WR, bank_RD, bank_VPA, bank_VDA])

theorem op_A5_fetch (step : Nat) (c : w65816_t) (pins : Nat) (r : w65816_t × Nat)
    (h25 : pins.testBit 25 = false) (h26 : pins.testBit 26 = false)
    (h : op_A5 step c pins = some r) : fetch_ok pins r := by
  unfold op_A5 at h
  split at h
  case h_5 => exact Option.noConfusion h
  case h_1 =>
    cases h
    exact fk_vda _ _ _ (by simp only [vda_SA, vda_SAD, vda_SALD, vda_SD, vda_SAL, vda_SB, vda_WR, vda_RD, vda_VPA, testBit_ite, snd_ite, h26, ite_self])
  case h_2 =>
    cases h
    exact fk_vpa _ _ _ (by simp only [vpa_SA, vpa_SAD, vpa_SALD, vpa_SD, vpa_SAL, vpa_SB, vpa_WR, vpa_RD, vpa_VDA, testBit_ite, snd_ite, h25, ite_self])
  case h_3 =>
    cases h
    repeat' first
      | (refine fk_fetch _ _ _ ?_; simp only [bank_SA, bank_SAD, bank_SALD, bank_SD, bank_WR, bank_RD, bank_VPA, bank_VDA]; done)
      | (refine fk_vpa _ _ _ ?_; simp only [vpa_SA, vpa_SAD, vpa_SALD, vpa_SD, vpa_SAL, vpa_SB, vpa_WR, vpa_RD, vpa_VDA, testBit_ite, snd_ite, h25, ite_self]; done)
      | (refine fk_vda _ _ _ ?_; simp only [vda_SA, vda_SAD, vda_SALD, vda_SD, vda_SAL, vda_SB, vda_WR, vda_RD, vda_VPA, testBit_ite, snd_ite, h26, ite_self]; done)
      | apply fk_ite_pair
      | apply fk_ite_pins
      | apply fk_ite
  case h_4 =>
    cases h
    exact fk_fetch _ _ _ (by simp only [bank_SA, bank_SAD, bank_SALD, bank_SD, bank_WR, bank_RD, bank_VPA, bank_VDA])

theorem op_A6_fetch (step : Nat) (c : w65816_t) (pins : Nat) (r : w65816_t × Nat)
    (h25 : pins.testBit 25 = false) (h26 : pins.testBit 26 = false)
    (h : op_A6 step c pins = some r) : fetch_ok pins r := by
  unfold op_A6 at h
  split at h
  case h_5 => exact Option.noConfusion h
  case h_1 =>
    cases h
    exact fk_vda _ _ _ (by simp only [vda_SA, vda_SAD, vda_SALD, vda_SD, vda_SAL, vda_SB, vda_WR, vda_RD, vda_VPA, testBit_ite, snd_ite, h26, ite_self])
  case h_2 =>
    cases h
    exact fk_vpa _ _ _ (by simp only [vpa_SA, vpa_SAD, vpa_SALD, vpa_SD, vpa_SAL, vpa_SB, vpa_WR, vpa_RD, vpa_VDA, testBit_ite, snd_ite, h25, ite_self])
  case h_3 =>
    cases h
    repeat' first
      | (refine fk_fetch _ _ _ ?_; simp only [bank_SA, bank_SAD, bank_SALD, bank_SD, bank_WR, bank_RD, bank_VPA, bank_VDA]; done)
      | (refine fk_vpa _ _ _ ?_; simp only [vpa_SA, vpa_SAD, vpa_SALD, vpa_SD, vpa_SAL, vpa_SB, vpa_WR, vpa_RD, vpa_VDA, testBit_ite, snd_ite, h25, ite_self]; done)
      | (refine fk_vda _ _ _ ?_; simp only [vda_SA, vda_SAD, vda_SALD, vda_SD, vda_SAL, vda_SB, vda_WR, vda_RD, vda_VPA, testBit_ite, snd_ite, h26, ite_self]; done)
      | apply fk_ite_pair
      | apply fk_ite_pins
      | apply fk_ite
  case h_4 =>
    cases h
    exact fk_fetch _ _ _ (by simp only [bank_SA, bank_SAD, bank_SALD, bank_SD, bank_WR, bank_RD, bank_VPA, bank_VDA])

theorem op_A7_fetch (step : Nat) (c : w65816_t) (pins : Nat) (r : w65816_t × Nat)
    (h25 : pins.testBit 25 = false) (h26 : pins.testBit 26 = false)
    (h : op_A7 step c pins = some r) : fetch_ok pins r := by
  unfold op_A7 at h
  split at h
  case h_4 => exact Option.noConfusion h
  case h_1 =>
    cases h
    exact fk_vpa _ _ _ (by simp only [vpa_SA, vpa_SAD, vpa_SALD, vpa_SD, vpa_SAL, vpa_SB, vpa_WR, vpa_RD, vpa_VDA, testBit_ite, snd_ite, h25, ite_self])
  case h_2 =>
    cases h
    repeat' first
      | (refine fk_fetch _ _ _ ?_; simp only [bank_SA, bank_SAD, bank_SALD, bank_SD, bank_WR, bank_RD, bank_VPA, bank_VDA]; done)
      | (refine fk_vpa _ _ _ ?_; simp only [vpa_SA, vpa_SAD, vpa_SALD, vpa_SD, vpa_SAL, vpa_SB, vpa_WR, vpa_RD, vpa_VDA, testBit_ite, snd_ite, h25, ite_self]; done)
      | (refine fk_vda _ _ _ ?_; simp only [vda_SA, vda_SAD, vda_SALD, vda_SD, vda_SAL, vda_SB, vda_WR, vda_RD, vda_VPA, testBit_ite, snd_ite, h26, ite_self]; done)
      | apply fk_ite_pair
      | apply fk_ite_pins
      | apply fk_ite
  case h_3 =>
    cases h
    exact fk_fetch _ _ _ (by simp only [bank_SA, bank_SAD, bank_SALD, bank_SD, bank_WR, bank_RD, bank_VPA, bank_VDA])

theorem op_A8_fetch (step : Nat) (c : w65816_t) (pins : Nat) (r : w65816_t × Nat)
    (h25 : pins.testBit 25 = false) (h26 : pins.testBit 26 = false)
    (h : op_A8 step c pins = some r) : fetch_ok pins r := by
  unfold op_A8 at h
  split at h
  case h_3 => exact Option.noConfusion h
  case h_1 =>
    cases h
    exact fk_vpa _ _ _ (by simp only [vpa_SA, vpa_SAD, vpa_SALD, vpa_SD, vpa_SAL, vpa_SB, vpa_WR, vpa_RD, vpa_VDA, testBit_ite, snd_ite, h25, ite_self])
  case h_2 =>
    cases h
    exact fk_fetch _ _ _ (by simp only [bank_SA, bank_SAD, bank_SALD, bank_SD, bank_WR, bank_RD, bank_VPA, bank_VDA])

theorem op_A9_fetch (step : Nat) (c : w65816_t) (pins : Nat) (r : w65816_t × Nat)
    (h25 : pins.testBit 25 = false) (h26 : pins.testBit 26 = false)
    (h : op_A9 step c pins = some r) : fetch_ok pins r := by
  unfold op_A9 at h
  split at h
  case h_4 => exact Option.noConfusion h
  case h_1 =>
    cases h
    exact fk_vda _ _ _ (by simp only [vda_SA, vda_SAD, vda_SALD, vda_SD, vda_SAL, vda_SB, vda_WR, vda_RD, vda_VPA, testBit_ite, snd_ite, h26, ite_self])
  case h_2 =>
    cases h
    repeat' first
      | (refine fk_fetch _ _ _ ?_; simp only [bank_SA, bank_SAD, bank_SALD, bank_SD, bank_WR, bank_RD, bank_VPA, bank_VDA]; done)
      | (refine fk_vpa _ _ _ ?_; simp only [vpa_SA, vpa_SAD, vpa_SALD, vpa_SD, vpa_SAL, vpa_SB, vpa_WR, vpa_RD, vpa_VDA, testBit_ite, snd_ite, h25, ite_self]; done)
      | (refine fk_vda _ _ _ ?_; simp only [vda_SA, vda_SAD, vda_SALD, vda_SD, vda_SAL, vda_SB, vda_WR, vda_RD, vda_VPA, testBit_ite, snd_ite, h26, ite_self]; done)
      | apply fk_ite_pair
      | apply fk_ite_pins
      | apply fk_ite
  case h_3 =>
    cases h
    exact fk_fetch _ _ _ (by simp only [bank_SA, bank_SAD, bank_SALD, bank_SD, bank_WR, bank_RD, bank_VPA, bank_VDA])

theorem op_AA_fetch (step : Nat) (c : w65816_t) (pins : Nat) (r : w65816_t × Nat)
    (h25 : pins.testBit 25 = false) (h26 : pins.testBit 26 = false)
    (h : op_AA step c pins = some r) : fetch_ok pins r := by
  unfold op_AA at h
  split at h
  case h_3 => exact Option.noConfusion h
  case h_1 =>
    cases h
    exact fk_vpa _ _ _ (by simp only [vpa_SA, vpa_SAD, vpa_SALD, vpa_SD, vpa_SAL, vpa_SB, vpa_WR, vpa_RD, vpa_VDA, testBit_ite, snd_ite, h25, ite_self])
  case h_2 =>
    cases h
    exact fk_fetch _ _ _ (by simp only [bank_SA, bank_SAD, bank_SALD, bank_SD, bank_WR, bank_RD, bank_VPA, bank_VDA])

theorem op_AB_fetch (step : Nat) (c : w65816_t) (pins : Nat) (r : w65816_t × Nat)
    (h25 : pins.testBit 25 = false) (h26 : pins.testBit 26 = false)
    (h : op_AB step c pins = some r) : fetch_ok pins r := by
  unfold op_AB at h
  split at h
  case h_5 => exact Option.noConfusion h
  case h_1 | h_2 | h_3 =>
    cases h
    exact fk_vpa _ _ _ (by simp only [vpa_SA, vpa_SAD, vpa_SALD, vpa_SD, vpa_SAL, vpa_SB, vpa_WR, vpa_RD, vpa_VDA, testBit_ite, snd_ite, h25, ite_self])
  case h_4 =>
    cases h
    exact fk_fetch _ _ _ (by simp only [bank_SA, bank_SAD, bank_SALD, bank_SD, bank_WR, bank_RD, bank_VPA, bank_VDA])

theorem op_AC_fetch (step : Nat) (c : w65816_t) (pins : Nat) (r : w65816_t × Nat)
    (h25 : pins.testBit 25 = false) (h26 : pins.testBit 26 = false)
    (h : op_AC step c pins = some r) : fetch_ok pins r := by
  unfold op_AC at h
  split at h
  case h_6 => exact Option.noConfusion h
  case h_1 | h_2 =>
    cases h
    exact fk_vda _ _ _ (by simp only [vda_SA, vda_SAD, vda_SALD, vda_SD, vda_SAL, vda_SB, vda_WR, vda_RD, vda_VPA, testBit_ite, snd_ite, h26, ite_self])
  case h_3 =>
    cases h
    exact fk_vpa _ _ _ (by simp only [vpa_SA, vpa_SAD, vpa_SALD, vpa_SD, vpa_SAL, vpa_SB, vpa_WR, vpa_RD, vpa_VDA, testBit_ite, snd_ite, h25, ite_self])
  case h_4 =>
    cases h
    repeat' first
      | (refine fk_fetch _ _ _ ?_; simp only [bank_SA, bank_SAD, bank_SALD, bank_SD, bank_WR, bank_RD, bank_VPA, bank_VDA]; done)
      | (refine fk_vpa _ _ _ ?_; simp only [vpa_SA, vpa_SAD, vpa_SALD, vpa_SD, vpa_SAL, vpa_SB, vpa_WR, vpa_RD, vpa_VDA, testBit_ite, snd_ite, h25, ite_self]; done)
      | (refine fk_vda _ _ _ ?_; simp only [vda_SA, vda_SAD, vda_SALD, vda_SD, vda_SAL, vda_SB, vda_WR, vda_RD, vda_VPA, testBit_ite, snd_ite, h26, ite_self]; done)
      | apply fk_ite_pair
      | apply fk_ite_pins
      | apply fk_ite
  case h_5 =>
    cases h
    exact fk_fetch _ _ _ (by simp only [bank_SA, bank_SAD, bank_SALD, bank_SD, bank_WR, bank_RD, bank_VPA, bank_VDA])

theorem op_AD_fetch (step : Nat) (c : w65816_t) (pins : Nat) (r : w65816_t × Nat)
    (h25 : pins.testBit 25 = false) (h26 : pins.testBit 26 = false)
    (h : op_AD step c pins = some r) : fetch_ok pins r := by
  unfold op_AD at h
  split at h
  case h_6 => exact Option.noConfusion h
  case h_1 | h_2 =>
    cases h
    exact fk_vda _ _ _ (by simp only [vda_SA, vda_SAD, vda_SALD, vda_SD, vda_SAL, vda_SB, vda_WR, vda_RD, vda_VPA, testBit_ite, snd_ite, h26, ite_self])
  case h_3 =>
    cases h
    exact fk_vpa _ _ _ (by simp only [vpa_SA, vpa_SAD, vpa_SALD, vpa_SD, vpa_SAL, vpa_SB, vpa_WR, vpa_RD, vpa_VDA, testBit_ite, snd_ite, h25, ite_self])
  case h_4 =>
    cases h
    repeat' first
      | (refine fk_fetch _ _ _ ?_; simp only [bank_SA, bank_SAD, bank_SALD, bank_SD, bank_WR, bank_RD, bank_VPA, bank_VDA]; done)
      | (refine fk_vpa _ _ _ ?_; simp only [vpa_SA, vpa_SAD, vpa_SALD, vpa_SD, vpa_SAL, vpa_SB, vpa_WR, vpa_RD, vpa_VDA, testBit_ite, snd_ite, h25, ite_self]; done)
      | (refine fk_vda _ _ _ ?_; simp only [vda_SA, vda_SAD, vda_SALD, vda_SD, vda_SAL, vda_SB, vda_WR, vda_RD, vda_VPA, testBit_ite, snd_ite, h26, ite_self]; done)
      | apply fk_ite_pair
      | apply fk_ite_pins
      | apply fk_ite
  case h_5 =>
    cases h
    exact fk_fetch _ _ _ (by simp only [bank_SA, bank_SAD, bank_SALD, bank_SD, bank_WR, bank_RD, bank_VPA, bank_VDA])

theorem op_AE_fetch (step : Nat) (c : w65816_t) (pins : Nat) (r : w65816_t × Nat)
    (h25 : pins.testBit 25 = false) (h26 : pins.testBit 26 = false)
    (h : op_AE step c pins = some r) : fetch_ok pins r := by
  unfold op_AE at h
  split at h
  case h_6 => exact Option.noConfusion h
  case h_1 | h_2 =>
    cases h
    exact fk_vda _ _ _ (by simp only [vda_SA, vda_SAD, vda_SALD, vda_SD, vda_SAL, vda_SB, vda_WR, vda_RD, vda_VPA, testBit_ite, snd_ite, h26, ite_self])
  case h_3 =>
    cases h
    exact fk_vpa _ _ _ (by simp only [vpa_SA, vpa_SAD, vpa_SALD, vpa_SD, vpa_SAL, vpa_SB, vpa_WR, vpa_RD, vpa_VDA, testBit_ite, snd_ite, h25, ite_self])
  case h_4 =>
    cases h
    repeat' first
      | (refine fk_fetch _ _ _ ?_; simp only [bank_SA, bank_SAD, bank_SALD, bank_SD, bank_WR, bank_RD, bank_VPA, bank_VDA]; done)
      | (refine fk_vpa _ _ _ ?_; simp only [vpa_SA, vpa_SAD, vpa_SALD, vpa_SD, vpa_SAL, vpa_SB, vpa_WR, vpa_RD, vpa_VDA, testBit_ite, snd_ite, h25, ite_self]; done)
      | (refine fk_vda _ _ _ ?_; simp only [vda_SA, vda_SAD, vda_SALD, vda_SD, vda_SAL, vda_SB, vda_WR, vda_RD, vda_VPA, testBit_ite, snd_ite, h26, ite_self]; done)
      | apply fk_ite_pair
      | apply fk_ite_pins
      | apply fk_ite
  case h_5 =>
    cases h
    exact fk_fetch _ _ _ (by simp only [bank_SA, bank_SAD, bank_SALD, bank_SD, bank_WR, bank_RD, bank_VPA, bank_VDA])

theorem op_AF_fetch (step : Nat) (c : w65816_t) (pins : Nat) (r : w65816_t × Nat)
    (h25 : pins.testBit 25 = false) (h26 : pins.testBit 26 = false)
    (h : op_AF step c pins = some r) : fetch_ok pins r := by
  unfold op_AF at h
  split at h
  case h_4 => exact Option.noConfusion h
  case h_1 =>
    cases h
    exact fk_vpa _ _ _ (by simp only [vpa_SA, vpa_SAD, vpa_SALD, vpa_SD, vpa_SAL, vpa_SB, vpa_WR, vpa_RD, vpa_VDA, testBit_ite, snd_ite, h25, ite_self])
  case h_2 =>
    cases h
    repeat' first
      | (refine fk_fetch _ _ _ ?_; simp only [bank_SA, bank_SAD, bank_SALD, bank_SD, bank_WR, bank_RD, bank_VPA, bank_VDA]; done)
      | (refine fk_vpa _ _ _ ?_; simp only [vpa_SA, vpa_SAD, vpa_SALD, vpa_SD, vpa_SAL, vpa_SB, vpa_WR, vpa_RD, vpa_VDA, testBit_ite, snd_ite, h25, ite_self]; done)
      | (refine fk_vda _ _ _ ?_; simp only [vda_SA, vda_SAD, vda_SALD, vda_SD, vda_SAL, vda_SB, vda_WR, vda_RD, vda_VPA, testBit_ite, snd_ite, h26, ite_self]; done)
      | apply fk_ite_pair
      | apply fk_ite_pins
      | apply fk_ite
  case h_3 =>
    cases h
    exact fk_fetch _ _ _ (by simp only [bank_SA, bank_SAD, bank_SALD, bank_SD, bank_WR, bank_RD, bank_VPA, bank_VDA])

theorem op_B0_fetch (step : Nat) (c : w65816_t) (pins : Nat) (r : w65816_t × Nat)
    (h25 : pins.testBit 25 = false) (h26 : pins.testBit 26 = false)
    (h : op_B0 step c pins = some r) : fetch_ok pins r := by
  unfold op_B0 at h
  split at h
  case h_5 => exact Option.noConfusion h
  case h_1 =>
    cases h
    exact fk_vda _ _ _ (by simp only [vda_SA, vda_SAD, vda_SALD, vda_SD, vda_SAL, vda_SB, vda_WR, vda_RD, vda_VPA, testBit_ite, snd_ite, h26, ite_self])
  case h_2 | h_3 =>
    cases h
    repeat' first
      | (refine fk_fetch _ _ _ ?_; simp only [bank_SA, bank_SAD, bank_SALD, bank_SD, bank_WR, bank_RD, bank_VPA, bank_VDA]; done)
      | (refine fk_vpa _ _ _ ?_; simp only [vpa_SA, vpa_SAD, vpa_SALD, vpa_SD, vpa_SAL, vpa_SB, vpa_WR, vpa_RD, vpa_VDA, testBit_ite, snd_ite, h25, ite_self]; done)
      | (refine fk_vda _ _ _ ?_; simp only [vda_SA, vda_SAD, vda_SALD, vda_SD, vda_SAL, vda_SB, vda_WR, vda_RD, vda_VPA, testBit_ite, snd_ite, h26, ite_self]; done)
      | apply fk_ite_pair
      | apply fk_ite_pins
      | apply fk_ite
  case h_4 =>
    cases h
    exact fk_fetch _ _ _ (by simp only [bank_SA, bank_SAD, bank_SALD, bank_SD, bank_WR, bank_RD, bank_VPA, bank_VDA])

theorem op_B1_fetch (step : Nat) (c : w65816_t) (pins : Nat) (r : w65816_t × Nat)
    (h25 : pins.testBit 25 = false) (h26 : pins.testBit 26 = false)
    (h : op_B1 step c pins = some r) : fetch_ok pins r := by
  unfold op_B1 at h
  split at h
  case h_8 => exact Option.noConfusion h
  case h_1 =>
    cases h
    exact fk_vda _ _ _ (by simp only [vda_SA, vda_SAD, vda_SALD, vda_SD, vda_SAL, vda_SB, vda_WR, vda_RD, vda_VPA, testBit_ite, snd_ite, h26, ite_self])
  case h_2 | h_3 | h_4 | h_5 =>
    cases h
    exact fk_vpa _ _ _ (by simp only [vpa_SA, vpa_SAD, vpa_SALD, vpa_SD, vpa_SAL, vpa_SB, vpa_WR, vpa_RD, vpa_VDA, testBit_ite, snd_ite, h25, ite_self])
  case h_6 =>
    cases h
    repeat' first
      | (refine fk_fetch _ _ _ ?_; simp only [bank_SA, bank_SAD, bank_SALD, bank_SD, bank_WR, bank_RD, bank_VPA, bank_VDA]; done)
      | (refine fk_vpa _ _ _ ?_; simp only [vpa_SA, vpa_SAD, vpa_SALD, vpa_SD, vpa_SAL, vpa_SB, vpa_WR, vpa_RD, vpa_VDA, testBit_ite, snd_ite, h25, ite_self]; done)
      | (refine fk_vda _ _ _ ?_; simp only [vda_SA, vda_SAD, vda_SALD, vda_SD, vda_SAL, vda_SB, vda_WR, vda_RD, vda_VPA, testBit_ite, snd_ite, h26, ite_self]; done)
      | apply fk_ite_pair
      | apply fk_ite_pins
      | apply fk_ite
  case h_7 =>
    cases h
    exact fk_fetch _ _ _ (by simp only [bank_SA, bank_SAD, bank_SALD, bank_SD, bank_WR, bank_RD, bank_VPA, bank_VDA])

theorem op_B2_fetch (step : Nat) (c : w65816_t) (pins : Nat) (r : w65816_t × Nat)
    (h25 : pins.testBit 25 = false) (h26 : pins.testBit 26 = false)
    (h : op_B2 step c pins = some r) : fetch_ok pins r := by
  unfold op_B2 at h
  split at h
  case h_4 => exact Option.noConfusion h
  case h_1 =>
    cases h
    exact fk_vpa _ _ _ (by simp only [vpa_SA, vpa_SAD, vpa_SALD, vpa_SD, vpa_SAL, vpa_SB, vpa_WR, vpa_RD, vpa_VDA, testBit_ite, snd_ite, h25, ite_self])
  case h_2 =>
    cases h
    repeat' first
      | (refine fk_fetch _ _ _ ?_; simp only [bank_SA, bank_SAD, bank_SALD, bank_SD, bank_WR, bank_RD, bank_VPA, bank_VDA]; done)
      | (refine fk_vpa _ _ _ ?_; simp only [vpa_SA, vpa_SAD, vpa_SALD, vpa_SD, vpa_SAL, vpa_SB, vpa_WR, vpa_RD, vpa_VDA, testBit_ite, snd_ite, h25, ite_self]; done)
      | (refine fk_vda _ _ _ ?_; simp only [vda_SA, vda_SAD, vda_SALD, vda_SD, vda_SAL, vda_SB, vda_WR, vda_RD, vda_VPA, testBit_ite, snd_ite, h26, ite_self]; done)
      | apply fk_ite_pair
      | apply fk_ite_pins
      | apply fk_ite
  case h_3 =>
    cases h
    exact fk_fetch _ _ _ (by simp only [bank_SA, bank_SAD, bank_SALD, bank_SD, bank_WR, bank_RD, bank_VPA, bank_VDA])

theorem op_B3_fetch (step : Nat) (c : w65816_t) (pins : Nat) (r : w65816_t × Nat)
    (h25 : pins.testBit 25 = false) (h26 : pins.testBit 26 = false)
    (h : op_B3 step c pins = some r) : fetch_ok pins r := by
  unfold op_B3 at h
  split at h
  case h_4 => exact Option.noConfusion h
  case h_1 =>
    cases h
    exact fk_vpa _ _ _ (by simp only [vpa_SA, vpa_SAD, vpa_SALD, vpa_SD, vpa_SAL, vpa_SB, vpa_WR, vpa_RD, vpa_VDA, testBit_ite, snd_ite, h25, ite_self])
  case h_2 =>
    cases h
    repeat' first
      | (refine fk_fetch _ _ _ ?_; simp only [bank_SA, bank_SAD, bank_SALD, bank_SD, bank_WR, bank_RD, bank_VPA, bank_VDA]; done)
      | (refine fk_vpa _ _ _ ?_; simp only [vpa_SA, vpa_SAD, vpa_SALD, vpa_SD, vpa_SAL, vpa_SB, vpa_WR, vpa_RD, vpa_VDA, testBit_ite, snd_ite, h25, ite_self]; done)
      | (refine fk_vda _ _ _ ?_; simp only [vda_SA, vda_SAD, vda_SALD, vda_SD, vda_SAL, vda_SB, vda_WR, vda_RD, vda_VPA, testBit_ite, snd_ite, h26, ite_self]; done)
      | apply fk_ite_pair
      | apply fk_ite_pins
      | apply fk_ite
  case h_3 =>
    cases h
    exact fk_fetch _ _ _ (by simp only [bank_SA, bank_SAD, bank_SALD, bank_SD, bank_WR, bank_RD, bank_VPA, bank_VDA])

theorem op_B4_fetch (step : Nat) (c : w65816_t) (pins : Nat) (r : w65816_t × Nat)
    (h25 : pins.testBit 25 = false) (h26 : pins.testBit 26 = false)
    (h : op_B4 step c pins = some r) : fetch_ok pins r := by
  unfold op_B4 at h
  split at h
  case h_6 => exact Option.noConfusion h
  case h_1 =>
    cases h
    exact fk_vda _ _ _ (by simp only [vda_SA, vda_SAD, vda_SALD, vda_SD, vda_SAL, vda_SB, vda_WR, vda_RD, vda_VPA, testBit_ite, snd_ite, h26, ite_self])
  case h_2 | h_3 =>
    cases h
    exact fk_vpa _ _ _ (by simp only [vpa_SA, vpa_SAD, vpa_SALD, vpa_SD, vpa_SAL, vpa_SB, vpa_WR, vpa_RD, vpa_VDA, testBit_ite, snd_ite, h25, ite_self])
  case h_4 =>
    cases h
    repeat' first
      | (refine fk_fetch _ _ _ ?_; simp only [bank_SA, bank_SAD, bank_SALD, bank_SD, bank_WR, bank_RD, bank_VPA, bank_VDA]; done)
      | (refine fk_vpa _ _ _ ?_; simp only [vpa_SA, vpa_SAD, vpa_SALD, vpa_SD, vpa_SAL, vpa_SB, vpa_WR, vpa_RD, vpa_VDA, testBit_ite, snd_ite, h25, ite_self]; done)
      | (refine fk_vda _ _ _ ?_; simp only [vda_SA, vda_SAD, vda_SALD, vda_SD, vda_SAL, vda_SB, vda_WR, vda_RD, vda_VPA, testBit_ite, snd_ite, h26, ite_self]; done)
      | apply fk_ite_pair
      | apply fk_ite_pins
      | apply fk_ite
  case h_5 =>
    cases h
    exact fk_fetch _ _ _ (by simp only [bank_SA, bank_SAD, bank_SALD, bank_SD, bank_WR, bank_RD, bank_VPA, bank_VDA])

theorem op_B5_fetch (step : Nat) (c : w65816_t) (pins : Nat) (r : w65816_t × Nat)
    (h25 : pins.testBit 25 = false) (h26 : pins.testBit 26 = false)
    (h : op_B5 step c pins = some r) : fetch_ok pins r := by
  unfold op_B5 at h
  split at h
  case h_6 => exact Option.noConfusion h
  case h_1 =>
    cases h
    exact fk_vda _ _ _ (by simp only [vda_SA, vda_SAD, vda_SALD, vda_SD, vda_SAL, vda_SB, vda_WR, vda_RD, vda_VPA, testBit_ite, snd_ite, h26, ite_self])
  case h_2 | h_3 =>
    cases h
    exact fk_vpa _ _ _ (by simp only [vpa_SA, vpa_SAD, vpa_SALD, vpa_SD, vpa_SAL, vpa_SB, vpa_WR, vpa_RD, vpa_VDA, testBit_ite, snd_ite, h25, ite_self])
  case h_4 =>
    cases h
    repeat' first
      | (refine fk_fetch _ _ _ ?_; simp only [bank_SA, bank_SAD, bank_SALD, bank_SD, bank_WR, bank_RD, bank_VPA, bank_VDA]; done)
      | (refine fk_vpa _ _ _ ?_; simp only [vpa_SA, vpa_SAD, vpa_SALD, vpa_SD, vpa_SAL, vpa_SB, vpa_WR, vpa_RD, vpa_VDA, testBit_ite, snd_ite, h25, ite_self]; done)
      | (refine fk_vda _ _ _ ?_; simp only [vda_SA, vda_SAD, vda_SALD, vda_SD, vda_SAL, vda_SB, vda_WR, vda_RD, vda_VPA, testBit_ite, snd_ite, h26, ite_self]; done)
      | apply fk_ite_pair
      | apply fk_ite_pins
      | apply fk_ite
  case h_5 =>
    cases h
    exact fk_fetch _ _ _ (by simp only [bank_SA, bank_SAD, bank_SALD, bank_SD, bank_WR, bank_RD, bank_VPA, bank_VDA])

theorem op_B6_fetch (step : Nat) (c : w65816_t) (pins : Nat) (r : w65816_t × Nat)
    (h25 : pins.testBit 25 = false) (h26 : pins.testBit 26 = false)
    (h : op_B6 step c pins = some r) : fetch_ok pins r := by
  unfold op_B6 at h
  split at h
  case h_6 => exact Option.noConfusion h
  case h_1 =>
    cases h
    exact fk_vda _ _ _ (by simp only [vda_SA, vda_SAD, vda_SALD, vda_SD, vda_SAL, vda_SB, vda_WR, vda_RD, vda_VPA, testBit_ite, snd_ite, h26, ite_self])
  case h_2 | h_3 =>
    cases h
    exact fk_vpa _ _ _ (by simp only [vpa_SA, vpa_SAD, vpa_SALD, vpa_SD, vpa_SAL, vpa_SB, vpa_WR, vpa_RD, vpa_VDA, testBit_ite, snd_ite, h25, ite_self])
  case h_4 =>
    cases h
    repeat' first
      | (refine fk_fetch _ _ _ ?_; simp only [bank_SA, bank_SAD, bank_SALD, bank_SD, bank_WR, bank_RD, bank_VPA, bank_VDA]; done)
      | (refine fk_vpa _ _ _ ?_; simp only [vpa_SA, vpa_SAD, vpa_SALD, vpa_SD, vpa_SAL, vpa_SB, vpa_WR, vpa_RD, vpa_VDA, testBit_ite, snd_ite, h25, ite_self]; done)
      | (refine fk_vda _ _ _ ?_; simp only [vda_SA, vda_SAD, vda_SALD, vda_SD, vda_SAL, vda_SB, vda_WR, vda_RD, vda_VPA, testBit_ite, snd_ite, h26, ite_self]; done)
      | apply fk_ite_pair
      | apply fk_ite_pins
      | apply fk_ite
  case h_5 =>
    cases h
    exact fk_fetch _ _ _ (by simp only [bank_SA, bank_SAD, bank_SALD, bank_SD, bank_WR, bank_RD, bank_VPA, bank_VDA])

theorem op_B7_fetch (step : Nat) (c : w65816_t) (pins : Nat) (r : w65816_t × Nat)
    (h25 : pins.testBit 25 = false) (h26 : pins.testBit 26 = false)
    (h : op_B7 step c pins = some r) : fetch_ok pins r := by
  unfold op_B7 at h
  split at h
  case h_4 => exact Option.noConfusion h
  case h_1 =>
    cases h
    exact fk_vpa _ _ _ (by simp only [vpa_SA, vpa_SAD, vpa_SALD, vpa_SD, vpa_SAL, vpa_SB, vpa_WR, vpa_RD, vpa_VDA, testBit_ite, snd_ite, h25, ite_self])
  case h_2 =>
    cases h
    repeat' first
      | (refine fk_fetch _ _ _ ?_; simp only [bank_SA, bank_SAD, bank_SALD, bank_SD, bank_WR, bank_RD, bank_VPA, bank_VDA]; done)
      | (refine fk_vpa _ _ _ ?_; simp only [vpa_SA, vpa_SAD, vpa_SALD, vpa_SD, vpa_SAL, vpa_SB, vpa_WR, vpa_RD, vpa_VDA, testBit_ite, snd_ite, h25, ite_self]; done)
      | (refine fk_vda _ _ _ ?_; simp only [vda_SA, vda_SAD, vda_SALD, vda_SD, vda_SAL, vda_SB, vda_WR, vda_RD, vda_VPA, testBit_ite, snd_ite, h26, ite_self]; done)
      | apply fk_ite_pair
      | apply fk_ite_pins
      | apply fk_ite
  case h_3 =>
    cases h
    exact fk_fetch _ _ _ (by simp only [bank_SA, bank_SAD, bank_SALD, bank_SD, bank_WR, bank_RD, bank_VPA, bank_VDA])

theorem op_B8_fetch (step : Nat) (c : w65816_t) (pins : Nat) (r : w65816_t × Nat)
    (h25 : pins.testBit 25 = false) (h26 : pins.testBit 26 = false)
    (h : op_B8 step c pins = some r) : fetch_ok pins r := by
  unfold op_B8 at h
  split at h
  case h_3 => exact Option.noConfusion h
  case h_1 =>
    cases h
    exact fk_vpa _ _ _ (by simp only [vpa_SA, vpa_SAD, vpa_SALD, vpa_SD, vpa_SAL, vpa_SB, vpa_WR, vpa_RD, vpa_VDA, testBit_ite, snd_ite, h25, ite_self])
  case h_2 =>
    cases h
    exact fk_fetch _ _ _ (by simp only [bank_SA, bank_SAD, bank_SALD, bank_SD, bank_WR, bank_RD, bank_VPA, bank_VDA])

theorem op_B9_fetch (step : Nat) (c : w65816_t) (pins : Nat) (r : w65816_t × Nat)
    (h25 : pins.testBit 25 = false) (h26 : pins.testBit 26 = false)
    (h : op_B9 step c pins = some r) : fetch_ok pins r := by
  unfold op_B9 at h
  split at h
  case h_7 => exact Option.noConfusion h
  case h_1 | h_2 =>
    cases h
    exact fk_vda _ _ _ (by simp only [vda_SA, vda_SAD, vda_SALD, vda_SD, vda_SAL, vda_SB, vda_WR, vda_RD, vda_VPA, testBit_ite, snd_ite, h26, ite_self])
  case h_3 | h_4 =>
    cases h
    exact fk_vpa _ _ _ (by simp only [vpa_SA, vpa_SAD, vpa_SALD, vpa_SD, vpa_SAL, vpa_SB, vpa_WR, vpa_RD, vpa_VDA, testBit_ite, snd_ite, h25, ite_self])
  case h_5 =>
    cases h
    repeat' first
      | (refine fk_fetch _ _ _ ?_; simp only [bank_SA, bank_SAD, bank_SALD, bank_SD, bank_WR, bank_RD, bank_VPA, bank_VDA]; done)
      | (refine fk_vpa _ _ _ ?_; simp only [vpa_SA, vpa_SAD, vpa_SALD, vpa_SD, vpa_SAL, vpa_SB, vpa_WR, vpa_RD, vpa_VDA, testBit_ite, snd_ite, h25, ite_self]; done)
      | (refine fk_vda _ _ _ ?_; simp only [vda_SA, vda_SAD, vda_SALD, vda_SD, vda_SAL, vda_SB, vda_WR, vda_RD, vda_VPA, testBit_ite, snd_ite, h26, ite_self]; done)
      | apply fk_ite_pair
      | apply fk_ite_pins
      | apply fk_ite
  case h_6 =>
    cases h
    exact fk_fetch _ _ _ (by simp only [bank_SA, bank_SAD, bank_SALD, bank_SD, bank_WR, bank_RD, bank_VPA, bank_VDA])

theorem op_BA_fetch (step : Nat) (c : w65816_t) (pins : Nat) (r : w65816_t × Nat)
    (h25 : pins.testBit 25 = false) (h26 : pins.testBit 26 = false)
    (h : op_BA step c pins = some r) : fetch_ok pins r := by
  unfold op_BA at h
  split at h
  case h_3 => exact Option.noConfusion h
  case h_1 =>
    cases h
    exact fk_vpa _ _ _ (by simp only [vpa_SA, vpa_SAD, vpa_SALD, vpa_SD, vpa_SAL, vpa_SB, vpa_WR, vpa_RD, vpa_VDA, testBit_ite, snd_ite, h25, ite_self])
  case h_2 =>
    cases h
    exact fk_fetch _ _ _ (by simp only [bank_SA, bank_SAD, bank_SALD, bank_SD, bank_WR, bank_RD, bank_VPA, bank_VDA])

theorem op_BB_fetch (step : Nat) (c : w65816_t) (pins : Nat) (r : w65816_t × Nat)
    (h25 : pins.testBit 25 = false) (h26 : pins.testBit 26 = false)
    (h : op_BB step c pins = some r) : fetch_ok pins r := by
  unfold op_BB at h
  split at h
  case h_3 => exact Option.noConfusion h
  case h_1 =>
    cases h
    exact fk_vpa _ _ _ (by simp only [vpa_SA, vpa_SAD, vpa_SALD, vpa_SD, vpa_SAL, vpa_SB, vpa_WR, vpa_RD, vpa_VDA, testBit_ite, snd_ite, h25, ite_self])
  case h_2 =>
    cases h
    exact fk_fetch _ _ _ (by simp only [bank_SA, bank_SAD, bank_SALD, bank_SD, bank_WR, bank_RD, bank_VPA, bank_VDA])

theorem op_BC_fetch (step : Nat) (c : w65816_t) (pins : Nat) (r : w65816_t × Nat)
    (h25 : pins.testBit 25 = false) (h26 : pins.testBit 26 = false)
    (h : op_BC step c pins = some r) : fetch_ok pins r := by
  unfold op_BC at h
  split at h
  case h_7 => exact Option.noConfusion h
  case h_1 | h_2 =>
    cases h
    exact fk_vda _ _ _ (by simp only [vda_SA, vda_SAD, vda_SALD, vda_SD, vda_SAL, vda_SB, vda_WR, vda_RD, vda_VPA, testBit_ite, snd_ite, h26, ite_self])
  case h_3 | h_4 =>
    cases h
    exact fk_vpa _ _ _ (by simp only [vpa_SA, vpa_SAD, vpa_SALD, vpa_SD, vpa_SAL, vpa_SB, vpa_WR, vpa_RD, vpa_VDA, testBit_ite, snd_ite, h25, ite_self])
  case h_5 =>
    cases h
    repeat' first
      | (refine fk_fetch _ _ _ ?_; simp only [bank_SA, bank_SAD, bank_SALD, bank_SD, bank_WR, bank_RD, bank_VPA, bank_VDA]; done)
      | (refine fk_vpa _ _ _ ?_; simp only [vpa_SA, vpa_SAD, vpa_SALD, vpa_SD, vpa_SAL, vpa_SB, vpa_WR, vpa_RD, vpa_VDA, testBit_ite, snd_ite, h25, ite_self]; done)
      | (refine fk_vda _ _ _ ?_; simp only [vda_SA, vda_SAD, vda_SALD, vda_SD, vda_SAL, vda_SB, vda_WR, vda_RD, vda_VPA, testBit_ite, snd_ite, h26, ite_self]; done)
      | apply fk_ite_pair
      | apply fk_ite_pins
      | apply fk_ite
  case h_6 =>
    cases h
    exact fk_fetch _ _ _ (by simp only [bank_SA, bank_SAD, bank_SALD, bank_SD, bank_WR, bank_RD, bank_VPA, bank_VDA])

theorem op_BD_fetch (step : Nat) (c : w65816_t) (pins : Nat) (r : w65816_t × Nat)
    (h25 : pins.testBit 25 = false) (h26 : pins.testBit 26 = false)
    (h : op_BD step c pins = some r) : fetch_ok pins r := by
  unfold op_BD at h
  split at h
  case h_7 => exact Option.noConfusion h
  case h_1 | h_2 =>
    cases h
    exact fk_vda _ _ _ (by simp only [vda_SA, vda_SAD, vda_SALD, vda_SD, vda_SAL, vda_SB, vda_WR, vda_RD, vda_VPA, testBit_ite, snd_ite, h26, ite_self])
  case h_3 | h_4 =>
    cases h
    exact fk_vpa _ _ _ (by simp only [vpa_SA, vpa_SAD, vpa_SALD, vpa_SD, vpa_SAL, vpa_SB, vpa_WR, vpa_RD, vpa_VDA, testBit_ite, snd_ite, h25, ite_self])
  case h_5 =>
    cases h
    repeat' first
      | (refine fk_fetch _ _ _ ?_; simp only [bank_SA, bank_SAD, bank_SALD, bank_SD, bank_WR, bank_RD, bank_VPA, bank_VDA]; done)
      | (refine fk_vpa _ _ _ ?_; simp only [vpa_SA, vpa_SAD, vpa_SALD, vpa_SD, vpa_SAL, vpa_SB, vpa_WR, vpa_RD, vpa_VDA, testBit_ite, snd_ite, h25, ite_self]; done)
      | (refine fk_vda _ _ _ ?_; simp only [vda_SA, vda_SAD, vda_SALD, vda_SD, vda_SAL, vda_SB, vda_WR, vda_RD, vda_VPA, testBit_ite, snd_ite, h26, ite_self]; done)
      | apply fk_ite_pair
      | apply fk_ite_pins
      | apply fk_ite
  case h_6 =>
    cases h
    exact fk_fetch _ _ _ (by simp only [bank_SA, bank_SAD, bank_SALD, bank_SD, bank_WR, bank_RD, bank_VPA, bank_VDA])

theorem op_BE_fetch (step : Nat) (c : w65816_t) (pins : Nat) (r : w65816_t × Nat)
    (h25 : pins.testBit 25 = false) (h26 : pins.testBit 26 = false)
    (h : op_BE step c pins = some r) : fetch_ok pins r := by
  unfold op_BE at h
  split at h
  case h_7 => exact Option.noConfusion h
  case h_1 | h_2 =>
    cases h
    exact fk_vda _ _ _ (by simp only [vda_SA, vda_SAD, vda_SALD, vda_SD, vda_SAL, vda_SB, vda_WR, vda_RD, vda_VPA, testBit_ite, snd_ite, h26, ite_self])
  case h_3 | h_4 =>
    cases h
    exact fk_vpa _ _ _ (by simp only [vpa_SA, vpa_SAD, vpa_SALD, vpa_SD, vpa_SAL, vpa_SB, vpa_WR, vpa_RD, vpa_VDA, testBit_ite, snd_ite, h25, ite_self])
  case h_5 =>
    cases h
    repeat' first
      | (refine fk_fetch _ _ _ ?_; simp only [bank_SA, bank_SAD, bank_SALD, bank_SD, bank_WR, bank_RD, bank_VPA, bank_VDA]; done)
      | (refine fk_vpa _ _ _ ?_; simp only [vpa_SA, vpa_SAD, vpa_SALD, vpa_SD, vpa_SAL, vpa_SB, vpa_WR, vpa_RD, vpa_VDA, testBit_ite, snd_ite, h25, ite_self]; done)
      | (refine fk_vda _ _ _ ?_; simp only [vda_SA, vda_SAD, vda_SALD, vda_SD, vda_SAL, vda_SB, vda_WR, vda_RD, vda_VPA, testBit_ite, snd_ite, h26, ite_self]; done)
      | apply fk_ite_pair
      | apply fk_ite_pins
      | apply fk_ite
  case h_6 =>
    cases h
    exact fk_fetch _ _ _ (by simp only [bank_SA, bank_SAD, bank_SALD, bank_SD, bank_WR, bank_RD, bank_VPA, bank_VDA])

theorem op_BF_fetch (step : Nat) (c : w65816_t) (pins : Nat) (r : w65816_t × Nat)
    (h25 : pins.testBit 25 = false) (h26 : pins.testBit 26 = false)
    (h : op_BF step c pins = some r) : fetch_ok pins r := by
  unfold op_BF at h
  split at h
  case h_4 => exact Option.noConfusion h
  case h_1 =>
    cases h
    exact fk_vpa _ _ _ (by simp only [vpa_SA, vpa_SAD, vpa_SALD, vpa_SD, vpa_SAL, vpa_SB, vpa_WR, vpa_RD, vpa_VDA, testBit_ite, snd_ite, h25, ite_self])
  case h_2 =>
    cases h
    repeat' first
      | (refine fk_fetch _ _ _ ?_; simp only [bank_SA, bank_SAD, bank_SALD, bank_SD, bank_WR, bank_RD, bank_VPA, bank_VDA]; done)
      | (refine fk_vpa _ _ _ ?_; simp only [vpa_SA, vpa_SAD, vpa_SALD, vpa_SD, vpa_SAL, vpa_SB, vpa_WR, vpa_RD, vpa_VDA, testBit_ite, snd_ite, h25, ite_self]; done)
      | (refine fk_vda _ _ _ ?_; simp only [vda_SA, vda_SAD, vda_SALD, vda_SD, vda_SAL, vda_SB, vda_WR, vda_RD, vda_VPA, testBit_ite, snd_ite, h26, ite_self]; done)
      | apply fk_ite_pair
      | apply fk_ite_pins
      | apply fk_ite
  case h_3 =>
    cases h
    exact fk_fetch _ _ _ (by simp only [bank_SA, bank_SAD, bank_SALD, bank_SD, bank_WR, bank_RD, bank_VPA, bank_VDA])

theorem op_C0_fetch (step : Nat) (c : w65816_t) (pins : Nat) (r : w65816_t × Nat)
    (h25 : pins.testBit 25 = false) (h26 : pins.testBit 26 = false)
    (h : op_C0 step c pins = some r) : fetch_ok pins r := by
  unfold op_C0 at h
  split at h
  case h_3 => exact Option.noConfusion h
  case h_1 =>
    cases h
    exact fk_vda _ _ _ (by simp only [vda_SA, vda_SAD, vda_SALD, vda_SD, vda_SAL, vda_SB, vda_WR, vda_RD, vda_VPA, testBit_ite, snd_ite, h26, ite_self])
  case h_2 =>
    cases h
    exact fk_fetch _ _ _ (by simp only [bank_SA, bank_SAD, bank_SALD, bank_SD, bank_WR, bank_RD, bank_VPA, bank_VDA])

theorem op_C1_fetch (step : Nat) (c : w65816_t) (pins : Nat) (r : w65816_t × Nat)
    (h25 : pins.testBit 25 = false) (h26 : pins.testBit 26 = false)
    (h : op_C1 step c pins = some r) : fetch_ok pins r := by
  unfold op_C1 at h
  split at h
  case h_7 => exact Option.noConfusion h
  case h_1 =>
    cases h
    exact fk_vda _ _ _ (by simp only [vda_SA, vda_SAD, vda_SALD, vda_SD, vda_SAL, vda_SB, vda_WR, vda_RD, vda_VPA, testBit_ite, snd_ite, h26, ite_self])
  case h_2 | h_3 | h_4 | h_5 =>
    cases h
    exact fk_vpa _ _ _ (by simp only [vpa_SA, vpa_SAD, vpa_SALD, vpa_SD, vpa_SAL, vpa_SB, vpa_WR, vpa_RD, vpa_VDA, testBit_ite, snd_ite, h25, ite_self])
  case h_6 =>
    cases h
    exact fk_fetch _ _ _ (by simp only [bank_SA, bank_SAD, bank_SALD, bank_SD, bank_WR, bank_RD, bank_VPA, bank_VDA])

theorem op_C2_fetch (step : Nat) (c : w65816_t) (pins : Nat) (r : w65816_t × Nat)
    (h25 : pins.testBit 25 = false) (h26 : pins.testBit 26 = false)
    (h : op_C2 step c pins = some r) : fetch_ok pins r := by
  unfold op_C2 at h
  split at h
  case h_4 => exact Option.noConfusion h
  case h_1 =>
    cases h
    exact fk_vda _ _ _ (by simp only [vda_SA, vda_SAD, vda_SALD, vda_SD, vda_SAL, vda_SB, vda_WR, vda_RD, vda_VPA, testBit_ite, snd_ite, h26, ite_self])
  case h_2 =>
    cases h
    exact fk_vpa _ _ _ (by simp only [vpa_SA, vpa_SAD, vpa_SALD, vpa_SD, vpa_SAL, vpa_SB, vpa_WR, vpa_RD, vpa_VDA, testBit_ite, snd_ite, h25, ite_self])
  case h_3 =>
    cases h
    exact fk_fetch _ _ _ (by simp only [bank_SA, bank_SAD, bank_SALD, bank_SD, bank_WR, bank_RD, bank_VPA, bank_VDA])

theorem op_C3_fetch (step : Nat) (c : w65816_t) (pins : Nat) (r : w65816_t × Nat)
    (h25 : pins.testBit 25 = false) (h26 : pins.testBit 26 = false)
    (h : op_C3 step c pins = some r) : fetch_ok pins r := by
  unfold op_C3 at h
  split at h
  case h_4 => exact Option.noConfusion h
  case h_1 | h_2 =>
    cases h
    exact fk_vpa _ _ _ (by simp only [vpa_SA, vpa_SAD, vpa_SALD, vpa_SD, vpa_SAL, vpa_SB, vpa_WR, vpa_RD, vpa_VDA, testBit_ite, snd_ite, h25, ite_self])
  case h_3 =>
    cases h
    exact fk_fetch _ _ _ (by simp only [bank_SA, bank_SAD, bank_SALD, bank_SD, bank_WR, bank_RD, bank_VPA, bank_VDA])

theorem op_C4_fetch (step : Nat) (c : w65816_t) (pins : Nat) (r : w65816_t × Nat)
    (h25 : pins.testBit 25 = false) (h26 : pins.testBit 26 = false)
    (h : op_C4 step c pins = some r) : fetch_ok pins r := by
  unfold op_C4 at h
  split at h
  case h_4 => exact Option.noConfusion h
  case h_1 =>
    cases h
    exact fk_vda _ _ _ (by simp only [vda_SA, vda_SAD, vda_SALD, vda_SD, vda_SAL, vda_SB, vda_WR, vda_RD, vda_VPA, testBit_ite, snd_ite, h26, ite_self])
  case h_2 =>
    cases h
    exact fk_vpa _ _ _ (by simp only [vpa_SA, vpa_SAD, vpa_SALD, vpa_SD, vpa_SAL, vpa_SB, vpa_WR, vpa_RD, vpa_VDA, testBit_ite, snd_ite, h25, ite_self])
  case h_3 =>
    cases h
    exact fk_fetch _ _ _ (by simp only [bank_SA, bank_SAD, bank_SALD, bank_SD, bank_WR, bank_RD, bank_VPA, bank_VDA])

theorem op_C5_fetch (step : Nat) (c : w65816_t) (pins : Nat) (r : w65816_t × Nat)
    (h25 : pins.testBit 25 = false) (h26 : pins.testBit 26 = false)
    (h : op_C5 step c pins = some r) : fetch_ok pins r := by
  unfold op_C5 at h
  split at h
  case h_4 => exact Option.noConfusion h
  case h_1 =>
    cases h
    exact fk_vda _ _ _ (by simp only [vda_SA, vda_SAD, vda_SALD, vda_SD, vda_SAL, vda_SB, vda_WR, vda_RD, vda_VPA, testBit_ite, snd_ite, h26, ite_self])
  case h_2 =>
    cases h
    exact fk_vpa _ _ _ (by simp only [vpa_SA, vpa_SAD, vpa_SALD, vpa_SD, vpa_SAL, vpa_SB, vpa_WR, vpa_RD, vpa_VDA, testBit_ite, snd_ite, h25, ite_self])
  case h_3 =>
    cases h
    exact fk_fetch _ _ _ (by simp only [bank_SA, bank_SAD, bank_SALD, bank_SD, bank_WR, bank_RD, bank_VPA, bank_VDA])

theorem op_C6_fetch (step : Nat) (c : w65816_t) (pins : Nat) (r : w65816_t × Nat)
    (h25 : pins.testBit 25 = false) (h26 : pins.testBit 26 = false)
    (h : op_C6 step c pins = some r) : fetch_ok pins r := by
  unfold op_C6 at h
  split at h
  case h_6 => exact Option.noConfusion h
  case h_1 =>
    cases h
    exact fk_vda _ _ _ (by simp only [vda_SA, vda_SAD, vda_SALD, vda_SD, vda_SAL, vda_SB, vda_WR, vda_RD, vda_VPA, testBit_ite, snd_ite, h26, ite_self])
  case h_2 | h_3 | h_4 =>
    cases h
    exact fk_vpa _ _ _ (by simp only [vpa_SA, vpa_SAD, vpa_SALD, vpa_SD, vpa_SAL, vpa_SB, vpa_WR, vpa_RD, vpa_VDA, testBit_ite, snd_ite, h25, ite_self])
  case h_5 =>
    cases h
    exact fk_fetch _ _ _ (by simp only [bank_SA, bank_SAD, bank_SALD, bank_SD, bank_WR, bank_RD, bank_VPA, bank_VDA])

theorem op_C7_fetch (step : Nat) (c : w65816_t) (pins : Nat) (r : w65816_t × Nat)
    (h25 : pins.testBit 25 = false) (h26 : pins.testBit 26 = false)
    (h : op_C7 step c pins = some r) : fetch_ok pins r := by
  unfold op_C7 at h
  split at h
  case h_4 => exact Option.noConfusion h
  case h_1 | h_2 =>
    cases h
    exact fk_vpa _ _ _ (by simp only [vpa_SA, vpa_SAD, vpa_SALD, vpa_SD, vpa_SAL, vpa_SB, vpa_WR, vpa_RD, vpa_VDA, testBit_ite, snd_ite, h25, ite_self])
  case h_3 =>
    cases h
    exact fk_fetch _ _ _ (by simp only [bank_SA, bank_SAD, bank_SALD, bank_SD, bank_WR, bank_RD, bank_VPA, bank_VDA])

theorem op_C8_fetch (step : Nat) (c : w65816_t) (pins : Nat) (r : w65816_t × Nat)
    (h25 : pins.testBit 25 = false) (h26 : pins.testBit 26 = false)
    (h : op_C8 step c pins = some r) : fetch_ok pins r := by
  unfold op_C8 at h
  split at h
  case h_3 => exact Option.noConfusion h
  case h_1 =>
    cases h
    exact fk_vpa _ _ _ (by simp only [vpa_SA, vpa_SAD, vpa_SALD, vpa_SD, vpa_SAL, vpa_SB, vpa_WR, vpa_RD, vpa_VDA, testBit_ite, snd_ite, h25, ite_self])
  case h_2 =>
    cases h
    exact fk_fetch _ _ _ (by simp only [bank_SA, bank_SAD, bank_SALD, bank_SD, bank_WR, bank_RD, bank_VPA, bank_VDA])

theorem op_C9_fetch (step : Nat) (c : w65816_t) (pins : Nat) (r : w65816_t × Nat)
    (h25 : pins.testBit 25 = false) (h26 : pins.testBit 26 = false)
    (h : op_C9 step c pins = some r) : fetch_ok pins r := by
  unfold op_C9 at h
  split at h
  case h_3 => exact Option.noConfusion h
  case h_1 =>
    cases h
    exact fk_vda _ _ _ (by simp only [vda_SA, vda_SAD, vda_SALD, vda_SD, vda_SAL, vda_SB, vda_WR, vda_RD, vda_VPA, testBit_ite, snd_ite, h26, ite_self])
  case h_2 =>
    cases h
    exact fk_fetch _ _ _ (by simp only [bank_SA, bank_SAD, bank_SALD, bank_SD, bank_WR, bank_RD, bank_VPA, bank_VDA])

theorem op_CA_fetch (step : Nat) (c : w65816_t) (pins : Nat) (r : w65816_t × Nat)
    (h25 : pins.testBit 25 = false) (h26 : pins.testBit 26 = false)
    (h : op_CA step c pins = some r) : fetch_ok pins r := by
  unfold op_CA at h
  split at h
  case h_3 => exact Option.noConfusion h
  case h_1 =>
    cases h
    exact fk_vpa _ _ _ (by simp only [vpa_SA, vpa_SAD, vpa_SALD, vpa_SD, vpa_SAL, vpa_SB, vpa_WR, vpa_RD, vpa_VDA, testBit_ite, snd_ite, h25, ite_self])
  case h_2 =>
    cases h
    exact fk_fetch _ _ _ (by simp only [bank_SA, bank_SAD, bank_SALD, bank_SD, bank_WR, bank_RD, bank_VPA, bank_VDA])

theorem op_CB_fetch (step : Nat) (c : w65816_t) (pins : Nat) (r : w65816_t × Nat)
    (h25 : pins.testBit 25 = false) (h26 : pins.testBit 26 = false)
    (h : op_CB step c pins = some r) : fetch_ok pins r := by
  unfold op_CB at h
  split at h
  case h_3 => exact Option.noConfusion h
  case h_1 =>
    cases h
    exact fk_vpa _ _ _ (by simp only [vpa_SA, vpa_SAD, vpa_SALD, vpa_SD, vpa_SAL, vpa_SB, vpa_WR, vpa_RD, vpa_VDA, testBit_ite, snd_ite, h25, ite_self])
  case h_2 =>
    cases h
    exact fk_fetch _ _ _ (by simp only [bank_SA, bank_SAD, bank_SALD, bank_SD, bank_WR, bank_RD, bank_VPA, bank_VDA])

theorem op_CC_fetch (step : Nat) (c : w65816_t) (pins : Nat) (r : w65816_t × Nat)
    (h25 : pins.testBit 25 = false) (h26 : pins.testBit 26 = false)
    (h : op_CC step c pins = some r) : fetch_ok pins r := by
  unfold op_CC at h
  split at h
  case h_5 => exact Option.noConfusion h
  case h_1 | h_2 =>
    cases h
    exact fk_vda _ _ _ (by simp only [vda_SA, vda_SAD, vda_SALD, vda_SD, vda_SAL, vda_SB, vda_WR, vda_RD, vda_VPA, testBit_ite, snd_ite, h26, ite_self])
  case h_3 =>
    cases h
    exact fk_vpa _ _ _ (by simp only [vpa_SA, vpa_SAD, vpa_SALD, vpa_SD, vpa_SAL, vpa_SB, vpa_WR, vpa_RD, vpa_VDA, testBit_ite, snd_ite, h25, ite_self])
  case h_4 =>
    cases h
    exact fk_fetch _ _ _ (by simp only [bank_SA, bank_SAD, bank_SALD, bank_SD, bank_WR, bank_RD, bank_VPA, bank_VDA])

theorem op_CD_fetch (step : Nat) (c : w65816_t) (pins : Nat) (r : w65816_t × Nat)
    (h25 : pins.testBit 25 = false) (h26 : pins.testBit 26 = false)
    (h : op_CD step c pins = some r) : fetch_ok pins r := by
  unfold op_CD at h
  split at h
  case h_5 => exact Option.noConfusion h
  case h_1 | h_2 =>
    cases h
    exact fk_vda _ _ _ (by simp only [vda_SA, vda_SAD, vda_SALD, vda_SD, vda_SAL, vda_SB, vda_WR, vda_RD, vda_VPA, testBit_ite, snd_ite, h26, ite_self])
  case h_3 =>
    cases h
    exact fk_vpa _ _ _ (by simp only [vpa_SA, vpa_SAD, vpa_SALD, vpa_SD, vpa_SAL, vpa_SB, vpa_WR, vpa_RD, vpa_VDA, testBit_ite, snd_ite, h25, ite_self])
  case h_4 =>
    cases h
    exact fk_fetch _ _ _ (by simp only [bank_SA, bank_SAD, bank_SALD, bank_SD, bank_WR, bank_RD, bank_VPA, bank_VDA])

theorem op_CE_fetch (step : Nat) (c : w65816_t) (pins : Nat) (r : w65816_t × Nat)
    (h25 : pins.testBit 25 = false) (h26 : pins.testBit 26 = false)
    (h : op_CE step c pins = some r) : fetch_ok pins r := by
  unfold op_CE at h
  split at h
  case h_7 => exact Option.noConfusion h
  case h_1 | h_2 =>
    cases h
    exact fk_vda _ _ _ (by simp only [vda_SA, vda_SAD, vda_SALD, vda_SD, vda_SAL, vda_SB, vda_WR, vda_RD, vda_VPA, testBit_ite, snd_ite, h26, ite_self])
  case h_3 | h_4 | h_5 =>
    cases h
    exact fk_vpa _ _ _ (by simp only [vpa_SA, vpa_SAD, vpa_SALD, vpa_SD, vpa_SAL, vpa_SB, vpa_WR, vpa_RD, vpa_VDA, testBit_ite, snd_ite, h25, ite_self])
  case h_6 =>
    cases h
    exact fk_fetch _ _ _ (by simp only [bank_SA, bank_SAD, bank_SALD, bank_SD, bank_WR, bank_RD, bank_VPA, bank_VDA])

theorem op_CF_fetch (step : Nat) (c : w65816_t) (pins : Nat) (r : w65816_t × Nat)
    (h25 : pins.testBit 25 = false) (h26 : pins.testBit 26 = false)
    (h : op_CF step c pins = some r) : fetch_ok pins r := by
  unfold op_CF at h
  split at h
  case h_4 => exact Option.noConfusion h
  case h_1 | h_2 =>
    cases h
    exact fk_vpa _ _ _ (by simp only [vpa_SA, vpa_SAD, vpa_SALD, vpa_SD, vpa_SAL, vpa_SB, vpa_WR, vpa_RD, vpa_VDA, testBit_ite, snd_ite, h25, ite_self])
  case h_3 =>
    cases h
    exact fk_fetch _ _ _ (by simp only [bank_SA, bank_SAD, bank_SALD, bank_SD, bank_WR, bank_RD, bank_VPA, bank_VDA])

theorem op_D0_fetch (step : Nat) (c : w65816_t) (pins : Nat) (r : w65816_t × Nat)
    (h25 : pins.testBit 25 = false) (h26 : pins.testBit 26 = false)
    (h : op_D0 step c pins = some r) : fetch_ok pins r := by
  unfold op_D0 at h
  split at h
  case h_5 => exact Option.noConfusion h
  case h_1 =>
    cases h
    exact fk_vda _ _ _ (by simp only [vda_SA, vda_SAD, vda_SALD, vda_SD, vda_SAL, vda_SB, vda_WR, vda_RD, vda_VPA, testBit_ite, snd_ite, h26, ite_self])
  case h_2 | h_3 =>
    cases h
    repeat' first
      | (refine fk_fetch _ _ _ ?_; simp only [bank_SA, bank_SAD, bank_SALD, bank_SD, bank_WR, bank_RD, bank_VPA, bank_VDA]; done)
      | (refine fk_vpa _ _ _ ?_; simp only [vpa_SA, vpa_SAD, vpa_SALD, vpa_SD, vpa_SAL, vpa_SB, vpa_WR, vpa_RD, vpa_VDA, testBit_ite, snd_ite, h25, ite_self]; done)
      | (refine fk_vda _ _ _ ?_; simp only [vda_SA, vda_SAD, vda_SALD, vda_SD, vda_SAL, vda_SB, vda_WR, vda_RD, vda_VPA, testBit_ite, snd_ite, h26, ite_self]; done)
      | apply fk_ite_pair
      | apply fk_ite_pins
      | apply fk_ite
  case h_4 =>
    cases h
    exact fk_fetch _ _ _ (by simp only [bank_SA, bank_SAD, bank_SALD, bank_SD, bank_WR, bank_RD, bank_VPA, bank_VDA])

theorem op_D1_fetch (step : Nat) (c : w65816_t) (pins : Nat) (r : w65816_t × Nat)
    (h25 : pins.testBit 25 = false) (h26 : pins.testBit 26 = false)
    (h : op_D1 step c pins = some r) : fetch_ok pins r := by
  unfold op_D1 at h
  split at h
  case h_7 => exact Option.noConfusion h
  case h_1 =>
    cases h
    exact fk_vda _ _ _ (by simp only [vda_SA, vda_SAD, vda_SALD, vda_SD, vda_SAL, vda_SB, vda_WR, vda_RD, vda_VPA, testBit_ite, snd_ite, h26, ite_self])
  case h_2 | h_3 | h_4 | h_5 =>
    cases h
    exact fk_vpa _ _ _ (by simp only [vpa_SA, vpa_SAD, vpa_SALD, vpa_SD, vpa_SAL, vpa_SB, vpa_WR, vpa_RD, vpa_VDA, testBit_ite, snd_ite, h25, ite_self])
  case h_6 =>
    cases h
    exact fk_fetch _ _ _ (by simp only [bank_SA, bank_SAD, bank_SALD, bank_SD, bank_WR, bank_RD, bank_VPA, bank_VDA])

theorem op_D2_fetch (step : Nat) (c : w65816_t) (pins : Nat) (r : w65816_t × Nat)
    (h25 : pins.testBit 25 = false) (h26 : pins.testBit 26 = false)
    (h : op_D2 step c pins = some r) : fetch_ok pins r := by
  unfold op_D2 at h
  split at h
  case h_4 => exact Option.noConfusion h
  case h_1 | h_2 =>
    cases h
    exact fk_vpa _ _ _ (by simp only [vpa_SA, vpa_SAD, vpa_SALD, vpa_SD, vpa_SAL, vpa_SB, vpa_WR, vpa_RD, vpa_VDA, testBit_ite, snd_ite, h25, ite_self])
  case h_3 =>
    cases h
    exact fk_fetch _ _ _ (by simp only [bank_SA, bank_SAD, bank_SALD, bank_SD, bank_WR, bank_RD, bank_VPA, bank_VDA])

theorem op_D3_fetch (step : Nat) (c : w65816_t) (pins : Nat) (r : w65816_t × Nat)
    (h25 : pins.testBit 25 = false) (h26 : pins.testBit 26 = false)
    (h : op_D3 step c pins = some r) : fetch_ok pins r := by
  unfold op_D3 at h
  split at h
  case h_4 => exact Option.noConfusion h
  case h_1 | h_2 =>
    cases h
    exact fk_vpa _ _ _ (by simp only [vpa_SA, vpa_SAD, vpa_SALD, vpa_SD, vpa_SAL, vpa_SB, vpa_WR, vpa_RD, vpa_VDA, testBit_ite, snd_ite, h25, ite_self])
  case h_3 =>
    cases h
    exact fk_fetch _ _ _ (by simp only [bank_SA, bank_SAD, bank_SALD, bank_SD, bank_WR, bank_RD, bank_VPA, bank_VDA])

theorem op_D4_fetch (step : Nat) (c : w65816_t) (pins : Nat) (r : w65816_t × Nat)
    (h25 : pins.testBit 25 = false) (h26 : pins.testBit 26 = false)
    (h : op_D4 step c pins = some r) : fetch_ok pins r := by
  unfold op_D4 at h
  split at h
  case h_3 => exact Option.noConfusion h
  case h_1 =>
    cases h
    exact fk_vpa _ _ _ (by simp only [vpa_SA, vpa_SAD, vpa_SALD, vpa_SD, vpa_SAL, vpa_SB, vpa_WR, vpa_RD, vpa_VDA, testBit_ite, snd_ite, h25, ite_self])
  case h_2 =>
    cases h
    exact fk_fetch _ _ _ (by simp only [bank_SA, bank_SAD, bank_SALD, bank_SD, bank_WR, bank_RD, bank_VPA, bank_VDA])

theorem op_D5_fetch (step : Nat) (c : w65816_t) (pins : Nat) (r : w65816_t × Nat)
    (h25 : pins.testBit 25 = false) (h26 : pins.testBit 26 = false)
    (h : op_D5 step c pins = some r) : fetch_ok pins r := by
  unfold op_D5 at h
  split at h
  case h_5 => exact Option.noConfusion h
  case h_1 =>
    cases h
    exact fk_vda _ _ _ (by simp only [vda_SA, vda_SAD, vda_SALD, vda_SD, vda_SAL, vda_SB, vda_WR, vda_RD, vda_VPA, testBit_ite, snd_ite, h26, ite_self])
  case h_2 | h_3 =>
    cases h
    exact fk_vpa _ _ _ (by simp only [vpa_SA, vpa_SAD, vpa_SALD, vpa_SD, vpa_SAL, vpa_SB, vpa_WR, vpa_RD, vpa_VDA, testBit_ite, snd_ite, h25, ite_self])
  case h_4 =>
    cases h
    exact fk_fetch _ _ _ (by simp only [bank_SA, bank_SAD, bank_SALD, bank_SD, bank_WR, bank_RD, bank_VPA, bank_VDA])

theorem op_D6_fetch (step : Nat) (c : w65816_t) (pins : Nat) (r : w65816_t × Nat)
    (h25 : pins.testBit 25 = false) (h26 : pins.testBit 26 = false)
    (h : op_D6 step c pins = some r) : fetch_ok pins r := by
  unfold op_D6 at h
  split at h
  case h_7 => exact Option.noConfusion h
  case h_1 =>
    cases h
    exact fk_vda _ _ _ (by simp only [vda_SA, vda_SAD, vda_SALD, vda_SD, vda_SAL, vda_SB, vda_WR, vda_RD, vda_VPA, testBit_ite, snd_ite, h26, ite_self])
  case h_2 | h_3 | h_4 | h_5 =>
    cases h
    exact fk_vpa _ _ _ (by simp only [vpa_SA, vpa_SAD, vpa_SALD, vpa_SD, vpa_SAL, vpa_SB, vpa_WR, vpa_RD, vpa_VDA, testBit_ite, snd_ite, h25, ite_self])
  case h_6 =>
    cases h
    exact fk_fetch _ _ _ (by simp only [bank_SA, bank_SAD, bank_SALD, bank_SD, bank_WR, bank_RD, bank_VPA, bank_VDA])

theorem op_D7_fetch (step : Nat) (c : w65816_t) (pins : Nat) (r : w65816_t × Nat)
    (h25 : pins.testBit 25 = false) (h26 : pins.testBit 26 = false)
    (h : op_D7 step c pins = some r) : fetch_ok pins r := by
  unfold op_D7 at h
  split at h
  case h_4 => exact Option.noConfusion h
  case h_1 | h_2 =>
    cases h
    exact fk_vpa _ _ _ (by simp only [vpa_SA, vpa_SAD, vpa_SALD, vpa_SD, vpa_SAL, vpa_SB, vpa_WR, vpa_RD, vpa_VDA, testBit_ite, snd_ite, h25, ite_self])
  case h_3 =>
    cases h
    exact fk_fetch _ _ _ (by simp only [bank_SA, bank_SAD, bank_SALD, bank_SD, bank_WR, bank_RD, bank_VPA, bank_VDA])

theorem op_D8_fetch (step : Nat) (c : w65816_t) (pins : Nat) (r : w65816_t × Nat)
    (h25 : pins.testBit 25 = false) (h26 : pins.testBit 26 = false)
    (h : op_D8 step c pins = some r) : fetch_ok pins r := by
  unfold op_D8 at h
  split at h
  case h_3 => exact Option.noConfusion h
  case h_1 =>
    cases h
    exact fk_vpa _ _ _ (by simp only [vpa_SA, vpa_SAD, vpa_SALD, vpa_SD, vpa_SAL, vpa_SB, vpa_WR, vpa_RD, vpa_VDA, testBit_ite, snd_ite, h25, ite_self])
  case h_2 =>
    cases h
    exact fk_fetch _ _ _ (by simp only [bank_SA, bank_SAD, bank_SALD, bank_SD, bank_WR, bank_RD, bank_VPA, bank_VDA])

theorem op_D9_fetch (step : Nat) (c : w65816_t) (pins : Nat) (r : w65816_t × Nat)
    (h25 : pins.testBit 25 = false) (h26 : pins.testBit 26 = false)
    (h : op_D9 step c pins = some r) : fetch_ok pins r := by
  unfold op_D9 at h
  split at h
  case h_6 => exact Option.noConfusion h
  case h_1 | h_2 =>
    cases h
    exact fk_vda _ _ _ (by simp only [vda_SA, vda_SAD, vda_SALD, vda_SD, vda_SAL, vda_SB, vda_WR, vda_RD, vda_VPA, testBit_ite, snd_ite, h26, ite_self])
  case h_3 | h_4 =>
    cases h
    exact fk_vpa _ _ _ (by simp only [vpa_SA, vpa_SAD, vpa_SALD, vpa_SD, vpa_SAL, vpa_SB, vpa_WR, vpa_RD, vpa_VDA, testBit_ite, snd_ite, h25, ite_self])
  case h_5 =>
    cases h
    exact fk_fetch _ _ _ (by simp only [bank_SA, bank_SAD, bank_SALD, bank_SD, bank_WR, bank_RD, bank_VPA, bank_VDA])

theorem op_DA_fetch (step : Nat) (c : w65816_t) (pins : Nat) (r : w65816_t × Nat)
    (h25 : pins.testBit 25 = false) (h26 : pins.testBit 26 = false)
    (h : op_DA step c pins = some r) : fetch_ok pins r := by
  unfold op_DA at h
  split at h
  case h_4 => exact Option.noConfusion h
  case h_1 | h_2 =>
    cases h
    exact fk_vpa _ _ _ (by simp only [vpa_SA, vpa_SAD, vpa_SALD, vpa_SD, vpa_SAL, vpa_SB, vpa_WR, vpa_RD, vpa_VDA, testBit_ite, snd_ite, h25, ite_self])
  case h_3 =>
    cases h
    exact fk_fetch _ _ _ (by simp only [bank_SA, bank_SAD, bank_SALD, bank_SD, bank_WR, bank_RD, bank_VPA, bank_VDA])

theorem op_DB_fetch (step : Nat) (c : w65816_t) (pins : Nat) (r : w65816_t × Nat)
    (h25 : pins.testBit 25 = false) (h26 : pins.testBit 26 = false)
    (h : op_DB step c pins = some r) : fetch_ok pins r := by
  unfold op_DB at h
  split at h
  case h_4 => exact Option.noConfusion h
  case h_1 | h_2 =>
    cases h
    exact fk_vpa _ _ _ (by simp only [vpa_SA, vpa_SAD, vpa_SALD, vpa_SD, vpa_SAL, vpa_SB, vpa_WR, vpa_RD, vpa_VDA, testBit_ite, snd_ite, h25, ite_self])
  case h_3 =>
    cases h
    exact fk_fetch _ _ _ (by simp only [bank_SA, bank_SAD, bank_SALD, bank_SD, bank_WR, bank_RD, bank_VPA, bank_VDA])

theorem op_DC_fetch (step : Nat) (c : w65816_t) (pins : Nat) (r : w65816_t × Nat)
    (h25 : pins.testBit 25 = false) (h26 : pins.testBit 26 = false)
    (h : op_DC step c pins = some r) : fetch_ok pins r := by
  unfold op_DC at h
  split at h
  case h_2 => exact Option.noConfusion h
  case h_1 =>
    cases h
    exact fk_fetch _ _ _ (by simp only [bank_SA, bank_SAD, bank_SALD, bank_SD, bank_WR, bank_RD, bank_VPA, bank_VDA])

theorem op_DD_fetch (step : Nat) (c : w65816_t) (pins : Nat) (r : w65816_t × Nat)
    (h25 : pins.testBit 25 = false) (h26 : pins.testBit 26 = false)
    (h : op_DD step c pins = some r) : fetch_ok pins r := by
  unfold op_DD at h
  split at h
  case h_6 => exact Option.noConfusion h
  case h_1 | h_2 =>
    cases h
    exact fk_vda _ _ _ (by simp only [vda_SA, vda_SAD, vda_SALD, vda_SD, vda_SAL, vda_SB, vda_WR, vda_RD, vda_VPA, testBit_ite, snd_ite, h26, ite_self])
  case h_3 | h_4 =>
    cases h
    exact fk_vpa _ _ _ (by simp only [vpa_SA, vpa_SAD, vpa_SALD, vpa_SD, vpa_SAL, vpa_SB, vpa_WR, vpa_RD, vpa_VDA, testBit_ite, snd_ite, h25, ite_self])
  case h_5 =>
    cases h
    exact fk_fetch _ _ _ (by simp only [bank_SA, bank_SAD, bank_SALD, bank_SD, bank_WR, bank_RD, bank_VPA, bank_VDA])

theorem op_DE_fetch (step : Nat) (c : w65816_t) (pins : Nat) (r : w65816_t × Nat)
    (h25 : pins.testBit 25 = false) (h26 : pins.testBit 26 = false)
    (h : op_DE step c pins = some r) : fetch_ok pins r := by
  unfold op_DE at h
  split at h
  case h_8 => exact Option.noConfusion h
  case h_1 | h_2 =>
    cases h
    exact fk_vda _ _ _ (by simp only [vda_SA, vda_SAD, vda_SALD, vda_SD, vda_SAL, vda_SB, vda_WR, vda_RD, vda_VPA, testBit_ite, snd_ite, h26, ite_self])
  case h_3 | h_4 | h_5 | h_6 =>
    cases h
    exact fk_vpa _ _ _ (by simp only [vpa_SA, vpa_SAD, vpa_SALD, vpa_SD, vpa_SAL, vpa_SB, vpa_WR, vpa_RD, vpa_VDA, testBit_ite, snd_ite, h25, ite_self])
  case h_7 =>
    cases h
    exact fk_fetch _ _ _ (by simp only [bank_SA, bank_SAD, bank_SALD, bank_SD, bank_WR, bank_RD, bank_VPA, bank_VDA])

theorem op_DF_fetch (step : Nat) (c : w65816_t) (pins : Nat) (r : w65816_t × Nat)
    (h25 : pins.testBit 25 = false) (h26 : pins.testBit 26 = false)
    (h : op_DF step c pins = some r) : fetch_ok pins r := by
  unfold op_DF at h
  split at h
  case h_4 => exact Option.noConfusion h
  case h_1 | h_2 =>
    cases h
    exact fk_vpa _ _ _ (by simp only [vpa_SA, vpa_SAD, vpa_SALD, vpa_SD, vpa_SAL, vpa_SB, vpa_WR, vpa_RD, vpa_VDA, testBit_ite, snd_ite, h25, ite_self])
  case h_3 =>
    cases h
    exact fk_fetch _ _ _ (by simp only [bank_SA, bank_SAD, bank_SALD, bank_SD, bank_WR, bank_RD, bank_VPA, bank_VDA])

theorem op_E0_fetch (step : Nat) (c : w65816_t) (pins : Nat) (r : w65816_t × Nat)
    (h25 : pins.testBit 25 = false) (h26 : pins.testBit 26 = false)
    (h : op_E0 step c pins = some r) : fetch_ok pins r := by
  unfold op_E0 at h
  split at h
  case h_3 => exact Option.noConfusion h
  case h_1 =>
    cases h
    exact fk_vda _ _ _ (by simp only [vda_SA, vda_SAD, vda_SALD, vda_SD, vda_SAL, vda_SB, vda_WR, vda_RD, vda_VPA, testBit_ite, snd_ite, h26, ite_self])
  case h_2 =>
    cases h
    exact fk_fetch _ _ _ (by simp only [bank_SA, bank_SAD, bank_SALD, bank_SD, bank_WR, bank_RD, bank_VPA, bank_VDA])

theorem op_E1_fetch (step : Nat) (c : w65816_t) (pins : Nat) (r : w65816_t × Nat)
    (h25 : pins.testBit 25 = false) (h26 : pins.testBit 26 = false)
    (h : op_E1 step c pins = some r) : fetch_ok pins r := by
  unfold op_E1 at h
  split at h
  case h_7 => exact Option.noConfusion h
  case h_1 =>
    cases h
    exact fk_vda _ _ _ (by simp only [vda_SA, vda_SAD, vda_SALD, vda_SD, vda_SAL, vda_SB, vda_WR, vda_RD, vda_VPA, testBit_ite, snd_ite, h26, ite_self])
  case h_2 | h_3 | h_4 | h_5 =>
    cases h
    exact fk_vpa _ _ _ (by simp only [vpa_SA, vpa_SAD, vpa_SALD, vpa_SD, vpa_SAL, vpa_SB, vpa_WR, vpa_RD, vpa_VDA, testBit_ite, snd_ite, h25, ite_self])
  case h_6 =>
    cases h
    exact fk_fetch _ _ _ (by simp only [bank_SA, bank_SAD, bank_SALD, bank_SD, bank_WR, bank_RD, bank_VPA, bank_VDA])

theorem op_E2_fetch (step : Nat) (c : w65816_t) (pins : Nat) (r : w65816_t × Nat)
    (h25 : pins.testBit 25 = false) (h26 : pins.testBit 26 = false)
    (h : op_E2 step c pins = some r) : fetch_ok pins r := by
  unfold op_E2 at h
  split at h
  case h_4 => exact Option.noConfusion h
  case h_1 =>
    cases h
    exact fk_vda _ _ _ (by simp only [vda_SA, vda_SAD, vda_SALD, vda_SD, vda_SAL, vda_SB, vda_WR, vda_RD, vda_VPA, testBit_ite, snd_ite, h26, ite_self])
  case h_2 =>
    cases h
    exact fk_vpa _ _ _ (by simp only [vpa_SA, vpa_SAD, vpa_SALD, vpa_SD, vpa_SAL, vpa_SB, vpa_WR, vpa_RD, vpa_VDA, testBit_ite, snd_ite, h25, ite_self])
  case h_3 =>
    cases h
    exact fk_fetch _ _ _ (by simp only [bank_SA, bank_SAD, bank_SALD, bank_SD, bank_WR, bank_RD, bank_VPA, bank_VDA])

theorem op_E3_fetch (step : Nat) (c : w65816_t) (pins : Nat) (r : w65816_t × Nat)
    (h25 : pins.testBit 25 = false) (h26 : pins.testBit 26 = false)
    (h : op_E3 step c pins = some r) : fetch_ok pins r := by
  unfold op_E3 at h
  split at h
  case h_4 => exact Option.noConfusion h
  case h_1 | h_2 =>
    cases h
    exact fk_vpa _ _ _ (by simp only [vpa_SA, vpa_SAD, vpa_SALD, vpa_SD, vpa_SAL, vpa_SB, vpa_WR, vpa_RD, vpa_VDA, testBit_ite, snd_ite, h25, ite_self])
  case h_3 =>
    cases h
    exact fk_fetch _ _ _ (by simp only [bank_SA, bank_SAD, bank_SALD, bank_SD, bank_WR, bank_RD, bank_VPA, bank_VDA])

theorem op_E4_fetch (step : Nat) (c : w65816_t) (pins : Nat) (r : w65816_t × Nat)
    (h25 : pins.testBit 25 = false) (h26 : pins.testBit 26 = false)
    (h : op_E4 step c pins = some r) : fetch_ok pins r := by
  unfold op_E4 at h
  split at h
  case h_4 => exact Option.noConfusion h
  case h_1 =>
    cases h
    exact fk_vda _ _ _ (by simp only [vda_SA, vda_SAD, vda_SALD, vda_SD, vda_SAL, vda_SB, vda_WR, vda_RD, vda_VPA, testBit_ite, snd_ite, h26, ite_self])
  case h_2 =>
    cases h
    exact fk_vpa _ _ _ (by simp only [vpa_SA, vpa_SAD, vpa_SALD, vpa_SD, vpa_SAL, vpa_SB, vpa_WR, vpa_RD, vpa_VDA, testBit_ite, snd_ite, h25, ite_self])
  case h_3 =>
    cases h
    exact fk_fetch _ _ _ (by simp only [bank_SA, bank_SAD, bank_SALD, bank_SD, bank_WR, bank_RD, bank_VPA, bank_VDA])

theorem op_E5_fetch (step : Nat) (c : w65816_t) (pins : Nat) (r : w65816_t × Nat)
    (h25 : pins.testBit 25 = false) (h26 : pins.testBit 26 = false)
    (h : op_E5 step c pins = some r) : fetch_ok pins r := by
  unfold op_E5 at h
  split at h
  case h_4 => exact Option.noConfusion h
  case h_1 =>
    cases h
    exact fk_vda _ _ _ (by simp only [vda_SA, vda_SAD, vda_SALD, vda_SD, vda_SAL, vda_SB, vda_WR, vda_RD, vda_VPA, testBit_ite, snd_ite, h26, ite_self])
  case h_2 =>
    cases h
    exact fk_vpa _ _ _ (by simp only [vpa_SA, vpa_SAD, vpa_SALD, vpa_SD, vpa_SAL, vpa_SB, vpa_WR, vpa_RD, vpa_VDA, testBit_ite, snd_ite, h25, ite_self])
  case h_3 =>
    cases h
    exact fk_fetch _ _ _ (by simp only [bank_SA, bank_SAD, bank_SALD, bank_SD, bank_WR, bank_RD, bank_VPA, bank_VDA])

theorem op_E6_fetch (step : Nat) (c : w65816_t) (pins : Nat) (r : w65816_t × Nat)
    (h25 : pins.testBit 25 = false) (h26 : pins.testBit 26 = false)
    (h : op_E6 step c pins = some r) : fetch_ok pins r := by
  unfold op_E6 at h
  split at h
  case h_6 => exact Option.noConfusion h
  case h_1 =>
    cases h
    exact fk_vda _ _ _ (by simp only [vda_SA, vda_SAD, vda_SALD, vda_SD, vda_SAL, vda_SB, vda_WR, vda_RD, vda_VPA, testBit_ite, snd_ite, h26, ite_self])
  case h_2 | h_3 | h_4 =>
    cases h
    exact fk_vpa _ _ _ (by simp only [vpa_SA, vpa_SAD, vpa_SALD, vpa_SD, vpa_SAL, vpa_SB, vpa_WR, vpa_RD, vpa_VDA, testBit_ite, snd_ite, h25, ite_self])
  case h_5 =>
    cases h
    exact fk_fetch _ _ _ (by simp only [bank_SA, bank_SAD, bank_SALD, bank_SD, bank_WR, bank_RD, bank_VPA, bank_VDA])

theorem op_E7_fetch (step : Nat) (c : w65816_t) (pins : Nat) (r : w65816_t × Nat)
    (h25 : pins.testBit 25 = false) (h26 : pins.testBit 26 = false)
    (h : op_E7 step c pins = some r) : fetch_ok pins r := by
  unfold op_E7 at h
  split at h
  case h_4 => exact Option.noConfusion h
  case h_1 | h_2 =>
    cases h
    exact fk_vpa _ _ _ (by simp only [vpa_SA, vpa_SAD, vpa_SALD, vpa_SD, vpa_SAL, vpa_SB, vpa_WR, vpa_RD, vpa_VDA, testBit_ite, snd_ite, h25, ite_self])
  case h_3 =>
    cases h
    exact fk_fetch _ _ _ (by simp only [bank_SA, bank_SAD, bank_SALD, bank_SD, bank_WR, bank_RD, bank_VPA, bank_VDA])

theorem op_E8_fetch (step : Nat) (c : w65816_t) (pins : Nat) (r : w65816_t × Nat)
    (h25 : pins.testBit 25 = false) (h26 : pins.testBit 26 = false)
    (h : op_E8 step c pins = some r) : fetch_ok pins r := by
  unfold op_E8 at h
  split at h
  case h_3 => exact Option.noConfusion h
  case h_1 =>
    cases h
    exact fk_vpa _ _ _ (by simp only [vpa_SA, vpa_SAD, vpa_SALD, vpa_SD, vpa_SAL, vpa_SB, vpa_WR, vpa_RD, vpa_VDA, testBit_ite, snd_ite, h25, ite_self])
  case h_2 =>
    cases h
    exact fk_fetch _ _ _ (by simp only [bank_SA, bank_SAD, bank_SALD, bank_SD, bank_WR, bank_RD, bank_VPA, bank_VDA])

theorem op_E9_fetch (step : Nat) (c : w65816_t) (pins : Nat) (r : w65816_t × Nat)
    (h25 : pins.testBit 25 = false) (h26 : pins.testBit 26 = false)
    (h : op_E9 step c pins = some r) : fetch_ok pins r := by
  unfold op_E9 at h
  split at h
  case h_3 => exact Option.noConfusion h
  case h_1 =>
    cases h
    exact fk_vda _ _ _ (by simp only [vda_SA, vda_SAD, vda_SALD, vda_SD, vda_SAL, vda_SB, vda_WR, vda_RD, vda_VPA, testBit_ite, snd_ite, h26, ite_self])
  case h_2 =>
    cases h
    exact fk_fetch _ _ _ (by simp only [bank_SA, bank_SAD, bank_SALD, bank_SD, bank_WR, bank_RD, bank_VPA, bank_VDA])

theorem op_EA_fetch (step : Nat) (c : w65816_t) (pins : Nat) (r : w65816_t × Nat)
    (h25 : pins.testBit 25 = false) (h26 : pins.testBit 26 = false)
    (h : op_EA step c pins = some r) : fetch_ok pins r := by
  unfold op_EA at h
  split at h
  case h_3 => exact Option.noConfusion h
  case h_1 =>
    cases h
    exact fk_vpa _ _ _ (by simp only [vpa_SA, vpa_SAD, vpa_SALD, vpa_SD, vpa_SAL, vpa_SB, vpa_WR, vpa_RD, vpa_VDA, testBit_ite, snd_ite, h25, ite_self])
  case h_2 =>
    cases h
    exact fk_fetch _ _ _ (by simp only [bank_SA, bank_SAD, bank_SALD, bank_SD, bank_WR, bank_RD, bank_VPA, bank_VDA])

theorem op_EB_fetch (step : Nat) (c : w65816_t) (pins : Nat) (r : w65816_t × Nat)
    (h25 : pins.testBit 25 = false) (h26 : pins.testBit 26 = false)
    (h : op_EB step c pins = some r) : fetch_ok pins r := by
  unfold op_EB at h
  split at h
  case h_4 => exact Option.noConfusion h
  case h_1 | h_2 =>
    cases h
    exact fk_vpa _ _ _ (by simp only [vpa_SA, vpa_SAD, vpa_SALD, vpa_SD, vpa_SAL, vpa_SB, vpa_WR, vpa_RD, vpa_VDA, testBit_ite, snd_ite, h25, ite_self])
  case h_3 =>
    cases h
    exact fk_fetch _ _ _ (by simp only [bank_SA, bank_SAD, bank_SALD, bank_SD, bank_WR, bank_RD, bank_VPA, bank_VDA])

theorem op_EC_fetch (step : Nat) (c : w65816_t) (pins : Nat) (r : w65816_t × Nat)
    (h25 : pins.testBit 25 = false) (h26 : pins.testBit 26 = false)
    (h : op_EC step c pins = some r) : fetch_ok pins r := by
  unfold op_EC at h
  split at h
  case h_5 => exact Option.noConfusion h
  case h_1 | h_2 =>
    cases h
    exact fk_vda _ _ _ (by simp only [vda_SA, vda_SAD, vda_SALD, vda_SD, vda_SAL, vda_SB, vda_WR, vda_RD, vda_VPA, testBit_ite, snd_ite, h26, ite_self])
  case h_3 =>
    cases h
    exact fk_vpa _ _ _ (by simp only [vpa_SA, vpa_SAD, vpa_SALD, vpa_SD, vpa_SAL, vpa_SB, vpa_WR, vpa_RD, vpa_VDA, testBit_ite, snd_ite, h25, ite_self])
  case h_4 =>
    cases h
    exact fk_fetch _ _ _ (by simp only [bank_SA, bank_SAD, bank_SALD, bank_SD, bank_WR, bank_RD, bank_VPA, bank_VDA])

theorem op_ED_fetch (step : Nat) (c : w65816_t) (pins : Nat) (r : w65816_t × Nat)
    (h25 : pins.testBit 25 = false) (h26 : pins.testBit 26 = false)
    (h : op_ED step c pins = some r) : fetch_ok pins r := by
  unfold op_ED at h
  split at h
  case h_5 => exact Option.noConfusion h
  case h_1 | h_2 =>
    cases h
    exact fk_vda _ _ _ (by simp only [vda_SA, vda_SAD, vda_SALD, vda_SD, vda_SAL, vda_SB, vda_WR, vda_RD, vda_VPA, testBit_ite, snd_ite, h26, ite_self])
  case h_3 =>
    cases h
    exact fk_vpa _ _ _ (by simp only [vpa_SA, vpa_SAD, vpa_SALD, vpa_SD, vpa_SAL, vpa_SB, vpa_WR, vpa_RD, vpa_VDA, testBit_ite, snd_ite, h25, ite_self])
  case h_4 =>
    cases h
    exact fk_fetch _ _ _ (by simp only [bank_SA, bank_SAD, bank_SALD, bank_SD, bank_WR, bank_RD, bank_VPA, bank_VDA])

theorem op_EE_fetch (step : Nat) (c : w65816_t) (pins : Nat) (r : w65816_t × Nat)
    (h25 : pins.testBit 25 = false) (h26 : pins.testBit 26 = false)
    (h : op_EE step c pins = some r) : fetch_ok pins r := by
  unfold op_EE at h
  split at h
  case h_7 => exact Option.noConfusion h
  case h_1 | h_2 =>
    cases h
    exact fk_vda _ _ _ (by simp only [vda_SA, vda_SAD, vda_SALD, vda_SD, vda_SAL, vda_SB, vda_WR, vda_RD, vda_VPA, testBit_ite, snd_ite, h26, ite_self])
  case h_3 | h_4 | h_5 =>
    cases h
    exact fk_vpa _ _ _ (by simp only [vpa_SA, vpa_SAD, vpa_SALD, vpa_SD, vpa_SAL, vpa_SB, vpa_WR, vpa_RD, vpa_VDA, testBit_ite, snd_ite, h25, ite_self])
  case h_6 =>
    cases h
    exact fk_fetch _ _ _ (by simp only [bank_SA, bank_SAD, bank_SALD, bank_SD, bank_WR, bank_RD, bank_VPA, bank_VDA])

theorem op_EF_fetch (step : Nat) (c : w65816_t) (pins : Nat) (r : w65816_t × Nat)
    (h25 : pins.testBit 25 = false) (h26 : pins.testBit 26 = false)
    (h : op_EF step c pins = some r) : fetch_ok pins r := by
  unfold op_EF at h
  split at h
  case h_4 => exact Option.noConfusion h
  case h_1 | h_2 =>
    cases h
    exact fk_vpa _ _ _ (by simp only [vpa_SA, vpa_SAD, vpa_SALD, vpa_SD, vpa_SAL, vpa_SB, vpa_WR, vpa_RD, vpa_VDA, testBit_ite, snd_ite, h25, ite_self])
  case h_3 =>
    cases h
    exact fk_fetch _ _ _ (by simp only [bank_SA, bank_SAD, bank_SALD, bank_SD, bank_WR, bank_RD, bank_VPA, bank_VDA])

theorem op_F0_fetch (step : Nat) (c : w65816_t) (pins : Nat) (r : w65816_t × Nat)
    (h25 : pins.testBit 25 = false) (h26 : pins.testBit 26 = false)
    (h : op_F0 step c pins = some r) : fetch_ok pins r := by
  unfold op_F0 at h
  split at h
  case h_5 => exact Option.noConfusion h
  case h_1 =>
    cases h
    exact fk_vda _ _ _ (by simp only [vda_SA, vda_SAD, vda_SALD, vda_SD, vda_SAL, vda_SB, vda_WR, vda_RD, vda_VPA, testBit_ite, snd_ite, h26, ite_self])
  case h_2 | h_3 =>
    cases h
    repeat' first
      | (refine fk_fetch _ _ _ ?_; simp only [bank_SA, bank_SAD, bank_SALD, bank_SD, bank_WR, bank_RD, bank_VPA, bank_VDA]; done)
      | (refine fk_vpa _ _ _ ?_; simp only [vpa_SA, vpa_SAD, vpa_SALD, vpa_SD, vpa_SAL, vpa_SB, vpa_WR, vpa_RD, vpa_VDA, testBit_ite, snd_ite, h25, ite_self]; done)
      | (refine fk_vda _ _ _ ?_; simp only [vda_SA, vda_SAD, vda_SALD, vda_SD, vda_SAL, vda_SB, vda_WR, vda_RD, vda_VPA, testBit_ite, snd_ite, h26, ite_self]; done)
      | apply fk_ite_pair
      | apply fk_ite_pins
      | apply fk_ite
  case h_4 =>
    cases h
    exact fk_fetch _ _ _ (by simp only [bank_SA, bank_SAD, bank_SALD, bank_SD, bank_WR, bank_RD, bank_VPA, bank_VDA])

theorem op_F1_fetch (step : Nat) (c : w65816_t) (pins : Nat) (r : w65816_t × Nat)
    (h25 : pins.testBit 25 = false) (h26 : pins.testBit 26 = false)
    (h : op_F1 step c pins = some r) : fetch_ok pins r := by
  unfold op_F1 at h
  split at h
  case h_7 => exact Option.noConfusion h
  case h_1 =>
    cases h
    exact fk_vda _ _ _ (by simp only [vda_SA, vda_SAD, vda_SALD, vda_SD, vda_SAL, vda_SB, vda_WR, vda_RD, vda_VPA, testBit_ite, snd_ite, h26, ite_self])
  case h_2 | h_3 | h_4 | h_5 =>
    cases h
    exact fk_vpa _ _ _ (by simp only [vpa_SA, vpa_SAD, vpa_SALD, vpa_SD, vpa_SAL, vpa_SB, vpa_WR, vpa_RD, vpa_VDA, testBit_ite, snd_ite, h25, ite_self])
  case h_6 =>
    cases h
    exact fk_fetch _ _ _ (by simp only [bank_SA, bank_SAD, bank_SALD, bank_SD, bank_WR, bank_RD, bank_VPA, bank_VDA])

theorem op_F2_fetch (step : Nat) (c : w65816_t) (pins : Nat) (r : w65816_t × Nat)
    (h25 : pins.testBit 25 = false) (h26 : pins.testBit 26 = false)
    (h : op_F2 step c pins = some r) : fetch_ok pins r := by
  unfold op_F2 at h
  split at h
  case h_4 => exact Option.noConfusion h
  case h_1 | h_2 =>
    cases h
    exact fk_vpa _ _ _ (by simp only [vpa_SA, vpa_SAD, vpa_SALD, vpa_SD, vpa_SAL, vpa_SB, vpa_WR, vpa_RD, vpa_VDA, testBit_ite, snd_ite, h25, ite_self])
  case h_3 =>
    cases h
    exact fk_fetch _ _ _ (by simp only [bank_SA, bank_SAD, bank_SALD, bank_SD, bank_WR, bank_RD, bank_VPA, bank_VDA])

theorem op_F3_fetch (step : Nat) (c : w65816_t) (pins : Nat) (r : w65816_t × Nat)
    (h25 : pins.testBit 25 = false) (h26 : pins.testBit 26 = false)
    (h : op_F3 step c pins = some r) : fetch_ok pins r := by
  unfold op_F3 at h
  split at h
  case h_4 => exact Option.noConfusion h
  case h_1 | h_2 =>
    cases h
    exact fk_vpa _ _ _ (by simp only [vpa_SA, vpa_SAD, vpa_SALD, vpa_SD, vpa_SAL, vpa_SB, vpa_WR, vpa_RD, vpa_VDA, testBit_ite, snd_ite, h25, ite_self])
  case h_3 =>
    cases h
    exact fk_fetch _ _ _ (by simp only [bank_SA, bank_SAD, bank_SALD, bank_SD, bank_WR, bank_RD, bank_VPA, bank_VDA])

theorem op_F4_fetch (step : Nat) (c : w65816_t) (pins : Nat) (r : w65816_t × Nat)
    (h25 : pins.testBit 25 = false) (h26 : pins.testBit 26 = false)
    (h : op_F4 step c pins = some r) : fetch_ok pins r := by
  unfold op_F4 at h
  split at h
  case h_3 => exact Option.noConfusion h
  case h_1 =>
    cases h
    exact fk_vpa _ _ _ (by simp only [vpa_SA, vpa_SAD, vpa_SALD, vpa_SD, vpa_SAL, vpa_SB, vpa_WR, vpa_RD, vpa_VDA, testBit_ite, snd_ite, h25, ite_self])
  case h_2 =>
    cases h
    exact fk_fetch _ _ _ (by simp only [bank_SA, bank_SAD, bank_SALD, bank_SD, bank_WR, bank_RD, bank_VPA, bank_VDA])

theorem op_F5_fetch (step : Nat) (c : w65816_t) (pins : Nat) (r : w65816_t × Nat)
    (h25 : pins.testBit 25 = false) (h26 : pins.testBit 26 = false)
    (h : op_F5 step c pins = some r) : fetch_ok pins r := by
  unfold op_F5 at h
  split at h
  case h_5 => exact Option.noConfusion h
  case h_1 =>
    cases h
    exact fk_vda _ _ _ (by simp only [vda_SA, vda_SAD, vda_SALD, vda_SD, vda_SAL, vda_SB, vda_WR, vda_RD, vda_VPA, testBit_ite, snd_ite, h26, ite_self])
  case h_2 | h_3 =>
    cases h
    exact fk_vpa _ _ _ (by simp only [vpa_SA, vpa_SAD, vpa_SALD, vpa_SD, vpa_SAL, vpa_SB, vpa_WR, vpa_RD, vpa_VDA, testBit_ite, snd_ite, h25, ite_self])
  case h_4 =>
    cases h
    exact fk_fetch _ _ _ (by simp only [bank_SA, bank_SAD, bank_SALD, bank_SD, bank_WR, bank_RD, bank_VPA, bank_VDA])

theorem op_F6_fetch (step : Nat) (c : w65816_t) (pins : Nat) (r : w65816_t × Nat)
    (h25 : pins.testBit 25 = false) (h26 : pins.testBit 26 = false)
    (h : op_F6 step c pins = some r) : fetch_ok pins r := by
  unfold op_F6 at h
  split at h
  case h_7 => exact Option.noConfusion h
  case h_1 =>
    cases h
    exact fk_vda _ _ _ (by simp only [vda_SA, vda_SAD, vda_SALD, vda_SD, vda_SAL, vda_SB, vda_WR, vda_RD, vda_VPA, testBit_ite, snd_ite, h26, ite_self])
  case h_2 | h_3 | h_4 | h_5 =>
    cases h
    exact fk_vpa _ _ _ (by simp only [vpa_SA, vpa_SAD, vpa_SALD, vpa_SD, vpa_SAL, vpa_SB, vpa_WR, vpa_RD, vpa_VDA, testBit_ite, snd_ite, h25, ite_self])
  case h_6 =>
    cases h
    exact fk_fetch _ _ _ (by simp only [bank_SA, bank_SAD, bank_SALD, bank_SD, bank_WR, bank_RD, bank_VPA, bank_VDA])

theorem op_F7_fetch (step : Nat) (c : w65816_t) (pins : Nat) (r : w65816_t × Nat)
    (h25 : pins.testBit 25 = false) (h26 : pins.testBit 26 = false)
    (h : op_F7 step c pins = some r) : fetch_ok pins r := by
  unfold op_F7 at h
  split at h
  case h_4 => exact Option.noConfusion h
  case h_1 | h_2 =>
    cases h
    exact fk_vpa _ _ _ (by simp only [vpa_SA, vpa_SAD, vpa_SALD, vpa_SD, vpa_SAL, vpa_SB, vpa_WR, vpa_RD, vpa_VDA, testBit_ite, snd_ite, h25, ite_self])
  case h_3 =>
    cases h
    exact fk_fetch _ _ _ (by simp only [bank_SA, bank_SAD, bank_SALD, bank_SD, bank_WR, bank_RD, bank_VPA, bank_VDA])

theorem op_F8_fetch (step : Nat) (c : w65816_t) (pins : Nat) (r : w65816_t × Nat)
    (h25 : pins.testBit 25 = false) (h26 : pins.testBit 26 = false)
    (h : op_F8 step c pins = some r) : fetch_ok pins r := by
  unfold op_F8 at h
  split at h
  case h_3 => exact Option.noConfusion h
  case h_1 =>
    cases h
    exact fk_vpa _ _ _ (by simp only [vpa_SA, vpa_SAD, vpa_SALD, vpa_SD, vpa_SAL, vpa_SB, vpa_WR, vpa_RD, vpa_VDA, testBit_ite, snd_ite, h25, ite_self])
  case h_2 =>
    cases h
    exact fk_fetch _ _ _ (by simp only [bank_SA, bank_SAD, bank_SALD, bank_SD, bank_WR, bank_RD, bank_VPA, bank_VDA])

theorem op_F9_fetch (step : Nat) (c : w65816_t) (pins : Nat) (r : w65816_t × Nat)
    (h25 : pins.testBit 25 = false) (h26 : pins.testBit 26 = false)
    (h : op_F9 step c pins = some r) : fetch_ok pins r := by
  unfold op_F9 at h
  split at h
  case h_6 => exact Option.noConfusion h
  case h_1 | h_2 =>
    cases h
    exact fk_vda _ _ _ (by simp only [vda_SA, vda_SAD, vda_SALD, vda_SD, vda_SAL, vda_SB, vda_WR, vda_RD, vda_VPA, testBit_ite, snd_ite, h26, ite_self])
  case h_3 | h_4 =>
    cases h
    exact fk_vpa _ _ _ (by simp only [vpa_SA, vpa_SAD, vpa_SALD, vpa_SD, vpa_SAL, vpa_SB, vpa_WR, vpa_RD, vpa_VDA, testBit_ite, snd_ite, h25, ite_self])
  case h_5 =>
    cases h
    exact fk_fetch _ _ _ (by simp only [bank_SA, bank_SAD, bank_SALD, bank_SD, bank_WR, bank_RD, bank_VPA, bank_VDA])

theorem op_FA_fetch (step : Nat) (c : w65816_t) (pins : Nat) (r : w65816_t × Nat)
    (h25 : pins.testBit 25 = false) (h26 : pins.testBit 26 = false)
    (h : op_FA step c pins = some r) : fetch_ok pins r := by
  unfold op_FA at h
  split at h
  case h_5 => exact Option.noConfusion h
  case h_1 | h_2 | h_3 =>
    cases h
    exact fk_vpa _ _ _ (by simp only [vpa_SA, vpa_SAD, vpa_SALD, vpa_SD, vpa_SAL, vpa_SB, vpa_WR, vpa_RD, vpa_VDA, testBit_ite, snd_ite, h25, ite_self])
  case h_4 =>
    cases h
    exact fk_fetch _ _ _ (by simp only [bank_SA, bank_SAD, bank_SALD, bank_SD, bank_WR, bank_RD, bank_VPA, bank_VDA])

theorem op_FB_fetch (step : Nat) (c : w65816_t) (pins : Nat) (r : w65816_t × Nat)
    (h25 : pins.testBit 25 = false) (h26 : pins.testBit 26 = false)
    (h : op_FB step c pins = some r) : fetch_ok pins r := by
  unfold op_FB at h
  split at h
  case h_3 => exact Option.noConfusion h
  case h_1 =>
    cases h
    exact fk_vpa _ _ _ (by simp only [vpa_SA, vpa_SAD, vpa_SALD, vpa_SD, vpa_SAL, vpa_SB, vpa_WR, vpa_RD, vpa_VDA, testBit_ite, snd_ite, h25, ite_self])
  case h_2 =>
    cases h
    exact fk_fetch _ _ _ (by simp only [bank_SA, bank_SAD, bank_SALD, bank_SD, bank_WR, bank_RD, bank_VPA, bank_VDA])

theorem op_FC_fetch (step : Nat) (c : w65816_t) (pins : Nat) (r : w65816_t × Nat)
    (h25 : pins.testBit 25 = false) (h26 : pins.testBit 26 = false)
    (h : op_FC step c pins = some r) : fetch_ok pins r := by
  unfold op_FC at h
  split at h
  case h_9 => exact Option.noConfusion h
  case h_1 | h_4 =>
    cases h
    exact fk_vda _ _ _ (by simp only [vda_SA, vda_SAD, vda_SALD, vda_SD, vda_SAL, vda_SB, vda_WR, vda_RD, vda_VPA, testBit_ite, snd_ite, h26, ite_self])
  case h_2 | h_3 | h_5 | h_6 | h_7 =>
    cases h
    exact fk_vpa _ _ _ (by simp only [vpa_SA, vpa_SAD, vpa_SALD, vpa_SD, vpa_SAL, vpa_SB, vpa_WR, vpa_RD, vpa_VDA, testBit_ite, snd_ite, h25, ite_self])
  case h_8 =>
    cases h
    exact fk_fetch _ _ _ (by simp only [bank_SA, bank_SAD, bank_SALD, bank_SD, bank_WR, bank_RD, bank_VPA, bank_VDA])

theorem op_FD_fetch (step : Nat) (c : w65816_t) (pins : Nat) (r : w65816_t × Nat)
    (h25 : pins.testBit 25 = false) (h26 : pins.testBit 26 = false)
    (h : op_FD step c pins = some r) : fetch_ok pins r := by
  unfold op_FD at h
  split at h
  case h_6 => exact Option.noConfusion h
  case h_1 | h_2 =>
    cases h
    exact fk_vda _ _ _ (by simp only [vda_SA, vda_SAD, vda_SALD, vda_SD, vda_SAL, vda_SB, vda_WR, vda_RD, vda_VPA, testBit_ite, snd_ite, h26, ite_self])
  case h_3 | h_4 =>
    cases h
    exact fk_vpa _ _ _ (by simp only [vpa_SA, vpa_SAD, vpa_SALD, vpa_SD, vpa_SAL, vpa_SB, vpa_WR, vpa_RD, vpa_VDA, testBit_ite, snd_ite, h25, ite_self])
  case h_5 =>
    cases h
    exact fk_fetch _ _ _ (by simp only [bank_SA, bank_SAD, bank_SALD, bank_SD, bank_WR, bank_RD, bank_VPA, bank_VDA])

theorem op_FE_fetch (step : Nat) (c : w65816_t) (pins : Nat) (r : w65816_t × Nat)
    (h25 : pins.testBit 25 = false) (h26 : pins.testBit 26 = false)
    (h : op_FE step c pins = some r) : fetch_ok pins r := by
  unfold op_FE at h
  split at h
  case h_8 => exact Option.noConfusion h
  case h_1 | h_2 =>
    cases h
    exact fk_vda _ _ _ (by simp only [vda_SA, vda_SAD, vda_SALD, vda_SD, vda_SAL, vda_SB, vda_WR, vda_RD, vda_VPA, testBit_ite, snd_ite, h26, ite_self])
  case h_3 | h_4 | h_5 | h_6 =>
    cases h
    exact fk_vpa _ _ _ (by simp only [vpa_SA, vpa_SAD, vpa_SALD, vpa_SD, vpa_SAL, vpa_SB, vpa_WR, vpa_RD, vpa_VDA, testBit_ite, snd_ite, h25, ite_self])
  case h_7 =>
    cases h
    exact fk_fetch _ _ _ (by simp only [bank_SA, bank_SAD, bank_SALD, bank_SD, bank_WR, bank_RD, bank_VPA, bank_VDA])

theorem op_FF_fetch (step : Nat) (c : w65816_t) (pins : Nat) (r : w65816_t × Nat)
    (h25 : pins.testBit 25 = false) (h26 : pins.testBit 26 = false)
    (h : op_FF step c pins = some r) : fetch_ok pins r := by
  unfold op_FF at h
  split at h
  case h_4 => exact Option.noConfusion h
  case h_1 | h_2 =>
    cases h
    exact fk_vpa _ _ _ (by simp only [vpa_SA, vpa_SAD, vpa_SALD, vpa_SD, vpa_SAL, vpa_SB, vpa_WR, vpa_RD, vpa_VDA, testBit_ite, snd_ite, h25, ite_self])
  case h_3 =>
    cases h
    exact fk_fetch _ _ _ (by simp only [bank_SA, bank_SAD, bank_SALD, bank_SD, bank_WR, bank_RD, bank_VPA, bank_VDA])

theorem decode_0_fetch (lo step : Nat) (c : w65816_t) (pins : Nat) (r : w65816_t × Nat)
    (h25 : pins.testBit 25 = false) (h26 : pins.testBit 26 = false)
    (h : decode_0 lo step c pins = some r) : fetch_ok pins r := by
  unfold decode_0 at h
  split at h
  · exact op_00_fetch _ _ _ _ h25 h26 h
  · exact op_01_fetch _ _ _ _ h25 h26 h
  · exact op_02_fetch _ _ _ _ h25 h26 h
  · exact op_03_fetch _ _ _ _ h25 h26 h
  · exact op_04_fetch _ _ _ _ h25 h26 h
  · exact op_05_fetch _ _ _ _ h25 h26 h
  · exact op_06_fetch _ _ _ _ h25 h26 h
  · exact op_07_fetch _ _ _ _ h25 h26 h
  · exact op_08_fetch _ _ _ _ h25 h26 h
  · exact op_09_fetch _ _ _ _ h25 h26 h
  · exact op_0A_fetch _ _ _ _ h25 h26 h
  · exact op_0B_fetch _ _ _ _ h25 h26 h
  · exact op_0C_fetch _ _ _ _ h25 h26 h
  · exact op_0D_fetch _ _ _ _ h25 h26 h
  · exact op_0E_fetch _ _ _ _ h25 h26 h
  · exact op_0F_fetch _ _ _ _ h25 h26 h
  · exact Option.noConfusion h

theorem decode_1_fetch (lo step : Nat) (c : w65816_t) (pins : Nat) (r : w65816_t × Nat)
    (h25 : pins.testBit 25 = false) (h26 : pins.testBit 26 = false)
    (h : decode_1 lo step c pins = some r) : fetch_ok pins r := by
  unfold decode_1 at h
  split at h
  · exact op_10_fetch _ _ _ _ h25 h26 h
  · exact op_11_fetch _ _ _ _ h25 h26 h
  · exact op_12_fetch _ _ _ _ h25 h26 h
  · exact op_13_fetch _ _ _ _ h25 h26 h
  · exact op_14_fetch _ _ _ _ h25 h26 h
  · exact op_15_fetch _ _ _ _ h25 h26 h
  · exact op_16_fetch _ _ _ _ h25 h26 h
  · exact op_17_fetch _ _ _ _ h25 h26 h
  · exact op_18_fetch _ _ _ _ h25 h26 h
  · exact op_19_fetch _ _ _ _ h25 h26 h
  · exact op_1A_fetch _ _ _ _ h25 h26 h
  · exact op_1B_fetch _ _ _ _ h25 h26 h
  · exact op_1C_fetch _ _ _ _ h25 h26 h
  · exact op_1D_fetch _ _ _ _ h25 h26 h
  · exact op_1E_fetch _ _ _ _ h25 h26 h
  · exact op_1F_fetch _ _ _ _ h25 h26 h
  · exact Option.noConfusion h

theorem decode_2_fetch (lo step : Nat) (c : w65816_t) (pins : Nat) (r : w65816_t × Nat)
    (h25 : pins.testBit 25 = false) (h26 : pins.testBit 26 = false)
    (h : decode_2 lo step c pins = some r) : fetch_ok pins r := by
  unfold decode_2 at h
  split at h
  · exact op_20_fetch _ _ _ _ h25 h26 h
  · exact op_21_fetch _ _ _ _ h25 h26 h
  · exact op_22_fetch _ _ _ _ h25 h26 h
  · exact op_23_fetch _ _ _ _ h25 h26 h
  · exact op_24_fetch _ _ _ _ h25 h26 h
  · exact op_25_fetch _ _ _ _ h25 h26 h
  · exact op_26_fetch _ _ _ _ h25 h26 h
  · exact op_27_fetch _ _ _ _ h25 h26 h
  · exact op_28_fetch _ _ _ _ h25 h26 h
  · exact op_29_fetch _ _ _ _ h25 h26 h
  · exact op_2A_fetch _ _ _ _ h25 h26 h
  · exact op_2B_fetch _ _ _ _ h25 h26 h
  · exact op_2C_fetch _ _ _ _ h25 h26 h
  · exact op_2D_fetch _ _ _ _ h25 h26 h
  · exact op_2E_fetch _ _ _ _ h25 h26 h
  · exact op_2F_fetch _ _ _ _ h25 h26 h
  · exact Option.noConfusion h

theorem decode_3_fetch (lo step : Nat) (c : w65816_t) (pins : Nat) (r : w65816_t × Nat)
    (h25 : pins.testBit 25 = false) (h26 : pins.testBit 26 = false)
    (h : decode_3 lo step c pins = some r) : fetch_ok pins r := by
  unfold decode_3 at h
  split at h
  · exact op_30_fetch _ _ _ _ h25 h26 h
  · exact op_31_fetch _ _ _ _ h25 h26 h
  · exact op_32_fetch _ _ _ _ h25 h26 h
  · exact op_33_fetch _ _ _ _ h25 h26 h
  · exact op_34_fetch _ _ _ _ h25 h26 h
  · exact op_35_fetch _ _ _ _ h25 h26 h
  · exact op_36_fetch _ _ _ _ h25 h26 h
  · exact op_37_fetch _ _ _ _ h25 h26 h
  · exact op_38_fetch _ _ _ _ h25 h26 h
  · exact op_39_fetch _ _ _ _ h25 h26 h
  · exact op_3A_fetch _ _ _ _ h25 h26 h
  · exact op_3B_fetch _ _ _ _ h25 h26 h
  · exact op_3C_fetch _ _ _ _ h25 h26 h
  · exact op_3D_fetch _ _ _ _ h25 h26 h
  · exact op_3E_fetch _ _ _ _ h25 h26 h
  · exact op_3F_fetch _ _ _ _ h25 h26 h
  · exact Option.noConfusion h

theorem decode_4_fetch (lo step : Nat) (c : w65816_t) (pins : Nat) (r : w65816_t × Nat)
    (h25 : pins.testBit 25 = false) (h26 : pins.testBit 26 = false)
    (h : decode_4 lo step c pins = some r) : fetch_ok pins r := by
  unfold decode_4 at h
  split at h
  · exact op_40_fetch _ _ _ _ h25 h26 h
  · exact op_41_fetch _ _ _ _ h25 h26 h
  · exact op_42_fetch _ _ _ _ h25 h26 h
  · exact op_43_fetch _ _ _ _ h25 h26 h
  · exact op_44_fetch _ _ _ _ h25 h26 h
  · exact op_45_fetch _ _ _ _ h25 h26 h
  · exact op_46_fetch _ _ _ _ h25 h26 h
  · exact op_47_fetch _ _ _ _ h25 h26 h
  · exact op_48_fetch _ _ _ _ h25 h26 h
  · exact op_49_fetch _ _ _ _ h25 h26 h
  · exact op_4A_fetch _ _ _ _ h25 h26 h
  · exact op_4B_fetch _ _ _ _ h25 h26 h
  · exact op_4C_fetch _ _ _ _ h25 h26 h
  · exact op_4D_fetch _ _ _ _ h25 h26 h
  · exact op_4E_fetch _ _ _ _ h25 h26 h
  · exact op_4F_fetch _ _ _ _ h25 h26 h
  · exact Option.noConfusion h

theorem decode_5_fetch (lo step : Nat) (c : w65816_t) (pins : Nat) (r : w65816_t × Nat)
    (h25 : pins.testBit 25 = false) (h26 : pins.testBit 26 = false)
    (h : decode_5 lo step c pins = some r) : fetch_ok pins r := by
  unfold decode_5 at h
  split at h
  · exact op_50_fetch _ _ _ _ h25 h26 h
  · exact op_51_fetch _ _ _ _ h25 h26 h
  · exact op_52_fetch _ _ _ _ h25 h26 h
  · exact op_53_fetch _ _ _ _ h25 h26 h
  · exact op_54_fetch _ _ _ _ h25 h26 h
  · exact op_55_fetch _ _ _ _ h25 h26 h
  · exact op_56_fetch _ _ _ _ h25 h26 h
  · exact op_57_fetch _ _ _ _ h25 h26 h
  · exact op_58_fetch _ _ _ _ h25 h26 h
  · exact op_59_fetch _ _ _ _ h25 h26 h
  · exact op_5A_fetch _ _ _ _ h25 h26 h
  · exact op_5B_fetch _ _ _ _ h25 h26 h
  · exact op_5C_fetch _ _ _ _ h25 h26 h
  · exact op_5D_fetch _ _ _ _ h25 h26 h
  · exact op_5E_fetch _ _ _ _ h25 h26 h
  · exact op_5F_fetch _ _ _ _ h25 h26 h
  · exact Option.noConfusion h

theorem decode_6_fetch (lo step : Nat) (c : w65816_t) (pins : Nat) (r : w65816_t × Nat)
    (h25 : pins.testBit 25 = false) (h26 : pins.testBit 26 = false)
    (h : decode_6 lo step c pins = some r) : fetch_ok pins r := by
  unfold decode_6 at h
  split at h
  · exact op_60_fetch _ _ _ _ h25 h26 h
  · exact op_61_fetch _ _ _ _ h25 h26 h
  · exact op_62_fetch _ _ _ _ h25 h26 h
  · exact op_63_fetch _ _ _ _ h25 h26 h
  · exact op_64_fetch _ _ _ _ h25 h26 h
  · exact op_65_fetch _ _ _ _ h25 h26 h
  · exact op_66_fetch _ _ _ _ h25 h26 h
  · exact op_67_fetch _ _ _ _ h25 h26 h
  · exact op_68_fetch _ _ _ _ h25 h26 h
  · exact op_69_fetch _ _ _ _ h25 h26 h
  · exact op_6A_fetch _ _ _ _ h25 h26 h
  · exact op_6B_fetch _ _ _ _ h25 h26 h
  · exact op_6C_fetch _ _ _ _ h25 h26 h
  · exact op_6D_fetch _ _ _ _ h25 h26 h
  · exact op_6E_fetch _ _ _ _ h25 h26 h
  · exact op_6F_fetch _ _ _ _ h25 h26 h
  · exact Option.noConfusion h

theorem decode_7_fetch (lo step : Nat) (c : w65816_t) (pins : Nat) (r : w65816_t × Nat)
    (h25 : pins.testBit 25 = false) (h26 : pins.testBit 26 = false)
    (h : decode_7 lo step c pins = some r) : fetch_ok pins r := by
  unfold decode_7 at h
  split at h
  · exact op_70_fetch _ _ _ _ h25 h26 h
  · exact op_71_fetch _ _ _ _ h25 h26 h
  · exact op_72_fetch _ _ _ _ h25 h26 h
  · exact op_73_fetch _ _ _ _ h25 h26 h
  · exact op_74_fetch _ _ _ _ h25 h26 h
  · exact op_75_fetch _ _ _ _ h25 h26 h
  · exact op_76_fetch _ _ _ _ h25 h26 h
  · exact op_77_fetch _ _ _ _ h25 h26 h
  · exact op_78_fetch _ _ _ _ h25 h26 h
  · exact op_79_fetch _ _ _ _ h25 h26 h
  · exact op_7A_fetch _ _ _ _ h25 h26 h
  · exact op_7B_fetch _ _ _ _ h25 h26 h
  · exact op_7C_fetch _ _ _ _ h25 h26 h
  · exact op_7D_fetch _ _ _ _ h25 h26 h
  · exact op_7E_fetch _ _ _ _ h25 h26 h
  · exact op_7F_fetch _ _ _ _ h25 h26 h
  · exact Option.noConfusion h

theorem decode_8_fetch (lo step : Nat) (c : w65816_t) (pins : Nat) (r : w65816_t × Nat)
    (h25 : pins.testBit 25 = false) (h26 : pins.testBit 26 = false)
    (h : decode_8 lo step c pins = some r) : fetch_ok pins r := by
  unfold decode_8 at h
  split at h
  · exact op_80_fetch _ _ _ _ h25 h26 h
  · exact op_81_fetch _ _ _ _ h25 h26 h
  · exact op_82_fetch _ _ _ _ h25 h26 h
  · exact op_83_fetch _ _ _ _ h25 h26 h
  · exact op_84_fetch _ _ _ _ h25 h26 h
  · exact op_85_fetch _ _ _ _ h25 h26 h
  · exact op_86_fetch _ _ _ _ h25 h26 h
  · exact op_87_fetch _ _ _ _ h25 h26 h
  · exact op_88_fetch _ _ _ _ h25 h26 h
  · exact op_89_fetch _ _ _ _ h25 h26 h
  · exact op_8A_fetch _ _ _ _ h25 h26 h
  · exact op_8B_fetch _ _ _ _ h25 h26 h
  · exact op_8C_fetch _ _ _ _ h25 h26 h
  · exact op_8D_fetch _ _ _ _ h25 h26 h
  · exact op_8E_fetch _ _ _ _ h25 h26 h
  · exact op_8F_fetch _ _ _ _ h25 h26 h
  · exact Option.noConfusion h

theorem decode_9_fetch (lo step : Nat) (c : w65816_t) (pins : Nat) (r : w65816_t × Nat)
    (h25 : pins.testBit 25 = false) (h26 : pins.testBit 26 = false)
    (h : decode_9 lo step c pins = some r) : fetch_ok pins r := by
  unfold decode_9 at h
  split at h
  · exact op_90_fetch _ _ _ _ h25 h26 h
  · exact op_91_fetch _ _ _ _ h25 h26 h
  · exact op_92_fetch _ _ _ _ h25 h26 h
  · exact op_93_fetch _ _ _ _ h25 h26 h
  · exact op_94_fetch _ _ _ _ h25 h26 h
  · exact op_95_fetch _ _ _ _ h25 h26 h
  · exact op_96_fetch _ _ _ _ h25 h26 h
  · exact op_97_fetch _ _ _ _ h25 h26 h
  · exact op_98_fetch _ _ _ _ h25 h26 h
  · exact op_99_fetch _ _ _ _ h25 h26 h
  · exact op_9A_fetch _ _ _ _ h25 h26 h
  · exact op_9B_fetch _ _ _ _ h25 h26 h
  · exact op_9C_fetch _ _ _ _ h25 h26 h
  · exact op_9D_fetch _ _ _ _ h25 h26 h
  · exact op_9E_fetch _ _ _ _ h25 h26 h
  · exact op_9F_fetch _ _ _ _ h25 h26 h
  · exact Option.noConfusion h

theorem decode_A_fetch (lo step : Nat) (c : w65816_t) (pins : Nat) (r : w65816_t × Nat)
    (h25 : pins.testBit 25 = false) (h26 : pins.testBit 26 = false)
    (h : decode_A lo step c pins = some r) : fetch_ok pins r := by
  unfold decode_A at h
  split at h
  · exact op_A0_fetch _ _ _ _ h25 h26 h
  · exact op_A1_fetch _ _ _ _ h25 h26 h
  · exact op_A2_fetch _ _ _ _ h25 h26 h
  · exact op_A3_fetch _ _ _ _ h25 h26 h
  · exact op_A4_fetch _ _ _ _ h25 h26 h
  · exact op_A5_fetch _ _ _ _ h25 h26 h
  · exact op_A6_fetch _ _ _ _ h25 h26 h
  · exact op_A7_fetch _ _ _ _ h25 h26 h
  · exact op_A8_fetch _ _ _ _ h25 h26 h
  · exact op_A9_fetch _ _ _ _ h25 h26 h
  · exact op_AA_fetch _ _ _ _ h25 h26 h
  · exact op_AB_fetch _ _ _ _ h25 h26 h
  · exact op_AC_fetch _ _ _ _ h25 h26 h
  · exact op_AD_fetch _ _ _ _ h25 h26 h
  · exact op_AE_fetch _ _ _ _ h25 h26 h
  · exact op_AF_fetch _ _ _ _ h25 h26 h
  · exact Option.noConfusion h

theorem decode_B_fetch (lo step : Nat) (c : w65816_t) (pins : Nat) (r : w65816_t × Nat)
    (h25 : pins.testBit 25 = false) (h26 : pins.testBit 26 = false)
    (h : decode_B lo step c pins = some r) : fetch_ok pins r := by
  unfold decode_B at h
  split at h
  · exact op_B0_fetch _ _ _ _ h25 h26 h
  · exact op_B1_fetch _ _ _ _ h25 h26 h
  · exact op_B2_fetch _ _ _ _ h25 h26 h
  · exact op_B3_fetch _ _ _ _ h25 h26 h
  · exact op_B4_fetch _ _ _ _ h25 h26 h
  · exact op_B5_fetch _ _ _ _ h25 h26 h
  · exact op_B6_fetch _ _ _ _ h25 h26 h
  · exact op_B7_fetch _ _ _ _ h25 h26 h
  · exact op_B8_fetch _ _ _ _ h25 h26 h
  · exact op_B9_fetch _ _ _ _ h25 h26 h
  · exact op_BA_fetch _ _ _ _ h25 h26 h
  · exact op_BB_fetch _ _ _ _ h25 h26 h
  · exact op_BC_fetch _ _ _ _ h25 h26 h
  · exact op_BD_fetch _ _ _ _ h25 h26 h
  · exact op_BE_fetch _ _ _ _ h25 h26 h
  · exact op_BF_fetch _ _ _ _ h25 h26 h
  · exact Option.noConfusion h

theorem decode_C_fetch (lo step : Nat) (c : w65816_t) (pins : Nat) (r : w65816_t × Nat)
    (h25 : pins.testBit 25 = false) (h26 : pins.testBit 26 = false)
    (h : decode_C lo step c pins = some r) : fetch_ok pins r := by
  unfold decode_C at h
  split at h
  · exact op_C0_fetch _ _ _ _ h25 h26 h
  · exact op_C1_fetch _ _ _ _ h25 h26 h
  · exact op_C2_fetch _ _ _ _ h25 h26 h
  · exact op_C3_fetch _ _ _ _ h25 h26 h
  · exact op_C4_fetch _ _ _ _ h25 h26 h
  · exact op_C5_fetch _ _ _ _ h25 h26 h
  · exact op_C6_fetch _ _ _ _ h25 h26 h
  · exact op_C7_fetch _ _ _ _ h25 h26 h
  · exact op_C8_fetch _ _ _ _ h25 h26 h
  · exact op_C9_fetch _ _ _ _ h25 h26 h
  · exact op_CA_fetch _ _ _ _ h25 h26 h
  · exact op_CB_fetch _ _ _ _ h25 h26 h
  · exact op_CC_fetch _ _ _ _ h25 h26 h
  · exact op_CD_fetch _ _ _ _ h25 h26 h
  · exact op_CE_fetch _ _ _ _ h25 h26 h
  · exact op_CF_fetch _ _ _ _ h25 h26 h
  · exact Option.noConfusion h

theorem decode_D_fetch (lo step : Nat) (c : w65816_t) (pins : Nat) (r : w65816_t × Nat)
    (h25 : pins.testBit 25 = false) (h26 : pins.testBit 26 = false)
    (h : decode_D lo step c pins = some r) : fetch_ok pins r := by
  unfold decode_D at h
  split at h
  · exact op_D0_fetch _ _ _ _ h25 h26 h
  · exact op_D1_fetch _ _ _ _ h25 h26 h
  · exact op_D2_fetch _ _ _ _ h25 h26 h
  · exact op_D3_fetch _ _ _ _ h25 h26 h
  · exact op_D4_fetch _ _ _ _ h25 h26 h
  · exact op_D5_fetch _ _ _ _ h25 h26 h
  · exact op_D6_fetch _ _ _ _ h25 h26 h
  · exact op_D7_fetch _ _ _ _ h25 h26 h
  · exact op_D8_fetch _ _ _ _ h25 h26 h
  · exact op_D9_fetch _ _ _ _ h25 h26 h
  · exact op_DA_fetch _ _ _ _ h25 h26 h
  · exact op_DB_fetch _ _ _ _ h25 h26 h
  · exact op_DC_fetch _ _ _ _ h25 h26 h
  · exact op_DD_fetch _ _ _ _ h25 h26 h
  · exact op_DE_fetch _ _ _ _ h25 h26 h
  · exact op_DF_fetch _ _ _ _ h25 h26 h
  · exact Option.noConfusion h

theorem decode_E_fetch (lo step : Nat) (c : w65816_t) (pins : Nat) (r : w65816_t × Nat)
    (h25 : pins.testBit 25 = false) (h26 : pins.testBit 26 = false)
    (h : decode_E lo step c pins = some r) : fetch_ok pins r := by
  unfold decode_E at h
  split at h
  · exact op_E0_fetch _ _ _ _ h25 h26 h
  · exact op_E1_fetch _ _ _ _ h25 h26 h
  · exact op_E2_fetch _ _ _ _ h25 h26 h
  · exact op_E3_fetch _ _ _ _ h25 h26 h
  · exact op_E4_fetch _ _ _ _ h25 h26 h
  · exact op_E5_fetch _ _ _ _ h25 h26 h
  · exact op_E6_fetch _ _ _ _ h25 h26 h
  · exact op_E7_fetch _ _ _ _ h25 h26 h
  · exact op_E8_fetch _ _ _ _ h25 h26 h
  · exact op_E9_fetch _ _ _ _ h25 h26 h
  · exact op_EA_fetch _ _ _ _ h25 h26 h
  · exact op_EB_fetch _ _ _ _ h25 h26 h
  · exact op_EC_fetch _ _ _ _ h25 h26 h
  · exact op_ED_fetch _ _ _ _ h25 h26 h
  · exact op_EE_fetch _ _ _ _ h25 h26 h
  · exact op_EF_fetch _ _ _ _ h25 h26 h
  · exact Option.noConfusion h

theorem decode_F_fetch (lo step : Nat) (c : w65816_t) (pins : Nat) (r : w65816_t × Nat)
    (h25 : pins.testBit 25 = false) (h26 : pins.testBit 26 = false)
    (h : decode_F lo step c pins = some r) : fetch_ok pins r := by
  unfold decode_F at h
  split at h
  · exact op_F0_fetch _ _ _ _ h25 h26 h
  · exact op_F1_fetch _ _ _ _ h25 h26 h
  · exact op_F2_fetch _ _ _ _ h25 h26 h
  · exact op_F3_fetch _ _ _ _ h25 h26 h
  · exact op_F4_fetch _ _ _ _ h25 h26 h
  · exact op_F5_fetch _ _ _ _ h25 h26 h
  · exact op_F6_fetch _ _ _ _ h25 h26 h
  · exact op_F7_fetch _ _ _ _ h25 h26 h
  · exact op_F8_fetch _ _ _ _ h25 h26 h
  · exact op_F9_fetch _ _ _ _ h25 h26 h
  · exact op_FA_fetch _ _ _ _ h25 h26 h
  · exact op_FB_fetch _ _ _ _ h25 h26 h
  · exact op_FC_fetch _ _ _ _ h25 h26 h
  · exact op_FD_fetch _ _ _ _ h25 h26 h
  · exact op_FE_fetch _ _ _ _ h25 h26 h
  · exact op_FF_fetch _ _ _ _ h25 h26 h
  · exact Option.noConfusion h

/-- Every decoder case reached with VPA and VDA clear that returns both of them set has the
address lines at `PC` and has left the bank lines alone. -/
theorem decode_fetch (ir : Nat) (c : w65816_t) (pins : Nat) (r : w65816_t × Nat)
    (h25 : pins.testBit 25 = false) (h26 : pins.testBit 26 = false)
    (h : w65816_decode ir c pins = some r) : fetch_ok pins r := by
  unfold w65816_decode at h
  split at h
  · exact decode_0_fetch _ _ _ _ _ h25 h26 h
  · exact decode_1_fetch _ _ _ _ _ h25 h26 h
  · exact decode_2_fetch _ _ _ _ _ h25 h26 h
  · exact decode_3_fetch _ _ _ _ _ h25 h26 h
  · exact decode_4_fetch _ _ _ _ _ h25 h26 h
  · exact decode_5_fetch _ _ _ _ _ h25 h26 h
  · exact decode_6_fetch _ _ _ _ _ h25 h26 h
  · exact decode_7_fetch _ _ _ _ _ h25 h26 h
  · exact decode_8_fetch _ _ _ _ _ h25 h26 h
  · exact decode_9_fetch _ _ _ _ _ h25 h26 h
  · exact decode_A_fetch _ _ _ _ _ h25 h26 h
  · exact decode_B_fetch _ _ _ _ _ h25 h26 h
  · exact decode_C_fetch _ _ _ _ _ h25 h26 h
  · exact decode_D_fetch _ _ _ _ _ h25 h26 h
  · exact decode_E_fetch _ _ _ _ _ h25 h26 h
  · exact decode_F_fetch _ _ _ _ _ h25 h26 h
  · exact Option.noConfusion h

/-! ## The address of an opcode fetch -/

theorem OFF_sync_vpa (p : Nat) : (_OFF p (W65816_VPA ||| W65816_VDA)).testBit 25 = false := by
  have e : NOT64 (W65816_VPA ||| W65816_VDA) =
      ((2 ^ 25 - 1) <<< 0) ||| ((2 ^ 37 - 1) <<< 27) := by decide
  rw [_OFF, Nat.testBit_and, e, Nat.testBit_or, testBit_field, testBit_field]
  simp

theorem OFF_sync_vda (p : Nat) : (_OFF p (W65816_VPA ||| W65816_VDA)).testBit 26 = false := by
  have e : NOT64 (W65816_VPA ||| W65816_VDA) =
      ((2 ^ 25 - 1) <<< 0) ||| ((2 ^ 37 - 1) <<< 27) := by decide
  rw [_OFF, Nat.testBit_and, e, Nat.testBit_or, testBit_field, testBit_field]
  simp

theorem bank_OFF_sync (p : Nat) :
    W65816_GET_BANK (_OFF p (W65816_VPA ||| W65816_VDA)) = W65816_GET_BANK p := by
  apply bank_eq_of
  intro i h1 h2
  have e : NOT64 (W65816_VPA ||| W65816_VDA) =
      ((2 ^ 25 - 1) <<< 0) ||| ((2 ^ 37 - 1) <<< 27) := by decide
  rw [_OFF, Nat.testBit_and, e, Nat.testBit_or, testBit_field, testBit_field]
  have h3 : 27 ≤ i := by omega
  have h4 : i < 27 + 37 := by omega
  simp [h3, h4]

theorem bank_tick_sync (c : w65816_t) (pins : Nat) :
    W65816_GET_BANK (tick_sync c pins).2 = W65816_GET_BANK pins := by
  simp only [tick_sync, tick_sync_force]
  split_ifs
  · apply bank_eq_of
    intro i h1 h2
    have e : NOT64 W65816_RES = ((2 ^ 30 - 1) <<< 0) ||| ((2 ^ 33 - 1) <<< 31) := by decide
    show (pins &&& NOT64 W65816_RES).testBit i = pins.testBit i
    rw [Nat.testBit_and, e, Nat.testBit_or, testBit_field, testBit_field]
    have h3 : 31 ≤ i := by omega
    have h4 : i < 31 + 33 := by omega
    simp [h3, h4]
  · rfl

theorem idle_sync_bits (pins : Nat)
    (h : ¬ pins &&& (W65816_VPA ||| W65816_VDA ||| W65816_IRQ ||| W65816_NMI ||| W65816_RDY |||
      W65816_RES) ≠ 0) : pins.testBit 25 = false ∧ pins.testBit 26 = false := by
  have h0 := not_not.1 h
  have key : ∀ i, (W65816_VPA ||| W65816_VDA ||| W65816_IRQ ||| W65816_NMI ||| W65816_RDY |||
      W65816_RES).testBit i = true → pins.testBit i = false := by
    intro i hi
    have := congrArg (fun x => x.testBit i) h0
    simp only [Nat.testBit_and, hi, Bool.and_true, Nat.zero_testBit] at this
    exact this
  exact ⟨key 25 (by decide), key 26 (by decide)⟩

/-- The decoder followed by the bottom of the tick. -/
theorem decode_finish_fetch (c : w65816_t) (p : Nat) (r : w65816_t × Nat)
    (h25 : p.testBit 25 = false) (h26 : p.testBit 26 = false)
    (h : (tick_decode c p).map (fun r => tick_finish r.1 r.2) = some r) : fetch_ok p r := by
  obtain ⟨r0, h0, h1⟩ := Option.map_eq_some'.1 h
  have hk := decode_fetch _ _ _ _ ((vpa_RD p).trans h25) ((vda_RD p).trans h26)
    (show w65816_decode c.IR { c with IR := (c.IR + 1) % 65536 } (_RD p) = some r0 from h0)
  intro hs
  rw [← h1] at hs ⊢
  rw [tick_finish_snd] at hs ⊢
  rw [tick_finish_PC]
  obtain ⟨ha, hb⟩ := hk hs
  exact ⟨ha, hb.trans (bank_RD p)⟩

/-- A tick that is not stalled by RDY and returns VPA and VDA has put `PC` on A0-A15 and has
left the bank lines as they were on its input pins. -/
theorem tick_fetch (c : w65816_t) (pins : Nat) (r : w65816_t × Nat)
    (hns : pins &&& (W65816_RW ||| W65816_RDY) ≠ W65816_RW ||| W65816_RDY)
    (h : w65816_tick c pins = some r) : fetch_ok pins r := by
  unfold w65816_tick at h
  by_cases hg : pins &&& (W65816_VPA ||| W65816_VDA ||| W65816_IRQ ||| W65816_NMI ||| W65816_RDY |||
      W65816_RES) ≠ 0
  · rw [if_pos hg, if_neg hns] at h
    have hk := decode_finish_fetch _ _ r (OFF_sync_vpa _) (OFF_sync_vda _) h
    intro hs
    obtain ⟨ha, hb⟩ := hk hs
    refine ⟨ha, hb.trans ((bank_OFF_sync _).trans ?_)⟩
    split_ifs
    · exact bank_tick_sync _ _
    · rfl
  · rw [if_neg hg] at h
    obtain ⟨h25, h26⟩ := idle_sync_bits pins hg
    exact decode_finish_fetch _ _ r h25 h26 h

theorem GET_ADDR_split (p : Nat) :
    W65816_GET_ADDR p = (W65816_GET_BANK p <<< 16) ||| _GA p := by
  apply Nat.eq_of_testBit_eq
  intro i
  simp only [W65816_GET_ADDR, _GA, Nat.testBit_or, Nat.testBit_and, Nat.testBit_shiftRight,
    Nat.testBit_shiftLeft, bank_testBit, testBit_FFFF, testBit_data_mask,
    show (0x100000000 : Nat) = 2 ^ 32 from rfl, show (65536 : Nat) = 2 ^ 16 from rfl,
    Nat.testBit_mod_two_pow]
  by_cases h : i < 16
  · have h1 : ¬ 16 ≤ i := by omega
    have h2 : i < 32 := by omega
    simp [h, h1, h2]
  · by_cases h3 : i < 24
    · have h1 : 16 ≤ i := by omega
      have h2 : i < 32 := by omega
      have h4 : i - 16 < 8 := by omega
      have e : 32 + (i - 16) = 16 + i := by omega
      simp [h, h1, h2, h3, h4, e]
    · have h1 : 16 ≤ i := by omega
      have h4 : ¬ i - 16 < 8 := by omega
      simp [h, h1, h3, h4]

/-- C24 (counterexample): the host loop runs from `w65816_init` with reset vector 0x8000 over
NOPs; after the seven reset ticks the host sets the program bank with `w65816_set_pb(cpu, 1)`.
The NOP at 0x8000 is executed and its second tick returns the next opcode fetch: PBR = 1 and
PC = 0x8001, but the 24-bit address on the pins is 0x008001, not 0x018001. -/
theorem fetch_ignores_program_bank :
    ∃ s, host_run 7 (host_init false
        (fun a => if a = 0xFFFC then 0x00 else if a = 0xFFFD then 0x80 else 0xEA)) = some s ∧
      ∃ r, host_tick 1 { s with cpu := w65816_set_pb s.cpu 1 } = some r ∧
        sync_out r.2 = true ∧ r.1.PBR = 1 ∧ r.1.PC = 0x8001 ∧
        W65816_GET_ADDR r.2 = 0x008001 ∧
        W65816_GET_ADDR r.2 ≠ (r.1.PBR <<< 16) ||| r.1.PC :=
  ⟨(host_run 7 _).get (by decide), (Option.some_get _).symm,
    (host_tick 1 _).get (by decide), (Option.some_get _).symm,
    by decide, by decide, by decide, by decide, by decide⟩

/-- C24 (amended): on every opcode fetch issued by the CPU, that is for every tick not stalled
by RDY whose returned pins have VPA and VDA set, A0-A15 equals PC; the bank lines A16-A23 are
not set from PBR but left as they were on the pins passed to the tick, so the 24-bit address
is `(bank of the input pins << 16) | PC`. -/
theorem fetch_address (c : w65816_t) (pins : Nat) (r : w65816_t × Nat)
    (h : w65816_tick c pins = some r)
    (hns : pins &&& (W65816_RW ||| W65816_RDY) ≠ W65816_RW ||| W65816_RDY)
    (hs : sync_out r.2 = true) :
    _GA r.2 = r.1.PC % 65536 ∧
    W65816_GET_BANK r.2 = W65816_GET_BANK pins ∧
    W65816_GET_ADDR r.2 = (W65816_GET_BANK pins <<< 16) ||| (r.1.PC % 65536) := by
  obtain ⟨ha, hb⟩ := tick_fetch c pins r hns h hs
  exact ⟨ha, hb, by rw [GET_ADDR_split, ha, hb]⟩

theorem fetch_address_witness :
    ∃ r, w65816_tick { (w65816_init false).1 with IR := 0x751, PC := 0x8001, PBR := 1 }
        (qpins 0x8001 0xEA true false false 0).word = some r ∧
      sync_out r.2 = true ∧ r.1.PBR = 1 ∧
      _GA r.2 = r.1.PC % 65536 ∧
      W65816_GET_BANK r.2 = W65816_GET_BANK (qpins 0x8001 0xEA true false false 0).word ∧
      W65816_GET_ADDR r.2 =
        (W65816_GET_BANK (qpins 0x8001 0xEA true false false 0).word <<< 16) |||
          (r.1.PC % 65536) :=
  ⟨(w65816_tick { (w65816_init false).1 with IR := 0x751, PC := 0x8001, PBR := 1 }
      (qpins 0x8001 0xEA true false false 0).word).get (by decide),
    (Option.some_get _).symm, by decide, by decide,
    fetch_address _ _ _ (Option.some_get _).symm (by decide) (by decide)⟩

/-! ## Direct-page addressing -/

theorem qpins_sync (a d bank : Nat) (rw vpa vda : Bool) :
    sync_out (qpins a d rw vpa vda bank).word = (vpa && vda) := by
  rw [Bool.eq_iff_iff, sync_out_iff, sync_qpins, Bool.and_eq_true]

theorem qpins_VDA (a d bank : Nat) (rw vpa : Bool) :
    (qpins a d rw vpa true bank).word &&& W65816_VDA ≠ 0 := by
  simp only [W65816_VDA, Nat.reduceShiftLeft, test_VDA_word, qpins]
  decide

theorem qpins_read (a d bank : Nat) (vpa vda : Bool) :
    (qpins a d true vpa vda bank).word &&& W65816_RW ≠ 0 := by
  simp only [W65816_RW, Nat.reduceShiftLeft, test_RW_word, qpins]
  decide

theorem qpins_write (a d bank : Nat) (vpa vda : Bool) :
    (qpins a d false vpa vda bank).word &&& W65816_RW = 0 := by
  simp only [W65816_RW, Nat.reduceShiftLeft, test_RW_word, qpins]
  decide

theorem qpins_addr (a d bank : Nat) (rw vpa vda : Bool) :
    W65816_GET_ADDR (qpins a d rw vpa vda bank).word = a % 65536 + bank % 256 * 65536 :=
  GET_ADDR_word _

theorem byte_addr (x : Nat) : x % 256 % 65536 = x % 256 := by omega

/-- LDA d under the host loop, whatever the width of the accumulator: the second iteration
reads the byte at the address given by the operand, in the bank on the pins. -/
theorem run_ldad_access (n : Nat) (s0 : Sys) (c : w65816_t) (mem : Mem) (a bank : Nat) (rw : Bool)
    (h : host_run n s0 = some (Sys.mk c (qpins a 0xA5 rw true true bank).word mem))
    (hb : c.brk_flags = 0) (hi : c.irq_pip = 0) (hn : c.nmi_pip = 0) :
    ∃ c1 c2,
      host_run (n + 1) s0 = some (Sys.mk c1 (qpins ((c.PC + 1) % 65536)
        (mem ((c.PC + 1) % 65536 + bank % 256 * 65536) % 256) true true false bank).word mem) ∧
      host_run (n + 2) s0 = some (Sys.mk c2
        (qpins (mem ((c.PC + 1) % 65536 + bank % 256 * 65536) % 256)
          (mem (mem ((c.PC + 1) % 65536 + bank % 256 * 65536) % 256 + bank % 256 * 65536) % 256)
          true false true bank).word mem) := by
  obtain ⟨c1, t0, i1, -⟩ := ldad_t0 c a bank rw hb hi hn
  have r1 := host_run_step _ _ _ _ h (host_step_qread _ _ mem _ _ _ _ _ _ t0)
  rw [Nat.mod_mod] at r1
  obtain ⟨c2, t1, -⟩ := ldad_t1 c1 _ _ bank true true false rfl i1
  have r2 := host_run_step _ _ _ _ r1 (host_step_qread _ _ mem _ _ _ _ _ _ t1)
  rw [Nat.mod_mod, byte_addr] at r2
  exact ⟨c1, c2, r1, r2⟩

/-- STA d under the host loop, whatever the width of the accumulator: the second iteration
writes A at the address given by the operand, in the bank on the pins. -/
theorem run_stad_access (n : Nat) (s0 : Sys) (c : w65816_t) (mem : Mem) (a bank : Nat) (rw : Bool)
    (h : host_run n s0 = some (Sys.mk c (qpins a 0x85 rw true true bank).word mem))
    (hb : c.brk_flags = 0) (hi : c.irq_pip = 0) (hn : c.nmi_pip = 0) :
    ∃ c2,
      host_run (n + 2) s0 = some (Sys.mk c2
        (qpins (mem ((c.PC + 1) % 65536 + bank % 256 * 65536) % 256) (_A c) false false true
          bank).word
        (fun x => if x = mem ((c.PC + 1) % 65536 + bank % 256 * 65536) % 256 + bank % 256 * 65536
          then _A c % 256 else mem x)) := by
  obtain ⟨c1, t0, i1, pc1, a1, -⟩ := sta_t0 c a bank rw hb hi hn
  have r1 := host_run_step _ _ _ _ h (host_step_qread _ _ mem _ _ _ _ _ _ t0)
  rw [Nat.mod_mod] at r1
  obtain ⟨c2, t1, -⟩ := sta_t1 c1 _ _ bank true true false rfl i1
  have r2 := host_run_step _ _ _ _ r1 (host_step_qwrite _ _ mem _ _ _ _ _ _ t1)
  have hA : _A c1 = _A c := by rw [_A, _A, a1]
  rw [Nat.mod_mod, byte_addr, hA] at r2
  exact ⟨c2, r2⟩

/-- LDA d under the host loop with an 8-bit accumulator (E = 1 or M = 1): three iterations; the
second one reads the byte at the address given by the operand, in the bank on the pins. -/
theorem run_ldad8 (n : Nat) (s0 : Sys) (c : w65816_t) (mem : Mem) (a bank : Nat) (rw : Bool)
    (h : host_run n s0 = some (Sys.mk c (qpins a 0xA5 rw true true bank).word mem))
    (hb : c.brk_flags = 0) (hi : c.irq_pip = 0) (hn : c.nmi_pip = 0) (ha : _a8 c = true) :
    ∃ c1 c2 c3,
      host_run (n + 1) s0 = some (Sys.mk c1 (qpins ((c.PC + 1) % 65536)
        (mem ((c.PC + 1) % 65536 + bank % 256 * 65536) % 256) true true false bank).word mem) ∧
      host_run (n + 2) s0 = some (Sys.mk c2
        (qpins (mem ((c.PC + 1) % 65536 + bank % 256 * 65536) % 256)
          (mem (mem ((c.PC + 1) % 65536 + bank % 256 * 65536) % 256 + bank % 256 * 65536) % 256)
          true false true bank).word mem) ∧
      host_run (n + 3) s0 = some (Sys.mk c3 (qpins ((c.PC + 2) % 65536)
        (mem ((c.PC + 2) % 65536 + bank % 256 * 65536) % 256) true true true bank).word mem) ∧
      c3.PC = (c.PC + 2) % 65536 ∧
      _A c3 = mem (mem ((c.PC + 1) % 65536 + bank % 256 * 65536) % 256 + bank % 256 * 65536) % 256 ∧
      c3.C &&& 0xFF00 = c.C &&& 0xFF00 := by
  obtain ⟨c1, t0, i1, pc1, a1, p1, s1, e1, b1⟩ := ldad_t0 c a bank rw hb hi hn
  have r1 := host_run_step _ _ _ _ h (host_step_qread _ _ mem _ _ _ _ _ _ t0)
  rw [Nat.mod_mod] at r1
  have ha1 : _a8 c1 = true := (a8_fin c c1 e1 p1).trans ha
  obtain ⟨c2, t1, i2, pc2, a2, p2, s2, e2, b2⟩ := ldad_t1 c1 _ _ bank true true false rfl i1
  have r2 := host_run_step _ _ _ _ r1 (host_step_qread _ _ mem _ _ _ _ _ _ t1)
  rw [Nat.mod_mod, byte_addr] at r2
  have ha2 : _a8 c2 = true := (a8_fin c1 c2 e2 p2).trans ha1
  obtain ⟨c3, t2, i3, pc3, a3, p3, s3, e3, b3⟩ :=
    ldad_t2_a8 c2 _ _ bank true false true rfl i2 ha2
  have r3 := host_run_step _ _ _ _ r2 (host_step_qread _ _ mem _ _ _ _ _ _ t2)
  rw [pc2, pc1, pc_two, Nat.mod_mod] at r3
  refine ⟨c1, c2, c3, r1, r2, r3, ?_, ?_, ?_⟩
  · rw [pc3, pc2, pc1, pc_two]
  · rw [_A, a3]
    simp only [Nat.mod_mod]
    exact lda8_A _ _
  · rw [a3, a2, a1]
    exact lda8_B _ _

/-- STA d under the host loop with an 8-bit accumulator (E = 1 or M = 1): three iterations; the
second one writes A at the address given by the operand, in the bank on the pins. -/
theorem run_stad8 (n : Nat) (s0 : Sys) (c : w65816_t) (mem : Mem) (a bank : Nat) (rw : Bool)
    (h : host_run n s0 = some (Sys.mk c (qpins a 0x85 rw true true bank).word mem))
    (hb : c.brk_flags = 0) (hi : c.irq_pip = 0) (hn : c.nmi_pip = 0) (ha : _a8 c = true) :
    ∃ c2 c3 d3,
      host_run (n + 2) s0 = some (Sys.mk c2
        (qpins (mem ((c.PC + 1) % 65536 + bank % 256 * 65536) % 256) (_A c) false false true
          bank).word
        (fun x => if x = mem ((c.PC + 1) % 65536 + bank % 256 * 65536) % 256 + bank % 256 * 65536
          then _A c % 256 else mem x)) ∧
      host_run (n + 3) s0 = some (Sys.mk c3 (qpins ((c.PC + 2) % 65536) d3 true true true bank).word
        (fun x => if x = mem ((c.PC + 1) % 65536 + bank % 256 * 65536) % 256 + bank % 256 * 65536
          then _A c % 256 else mem x)) := by
  obtain ⟨c1, t0, i1, pc1, a1, p1, s1, e1, b1⟩ := sta_t0 c a bank rw hb hi hn
  have r1 := host_run_step _ _ _ _ h (host_step_qread _ _ mem _ _ _ _ _ _ t0)
  rw [Nat.mod_mod] at r1
  have ha1 : _a8 c1 = true := (a8_fin c c1 e1 p1).trans ha
  obtain ⟨c2, t1, i2, pc2, a2, p2, s2, e2, b2⟩ := sta_t1 c1 _ _ bank true true false rfl i1
  have r2 := host_run_step _ _ _ _ r1 (host_step_qwrite _ _ mem _ _ _ _ _ _ t1)
  have hA : _A c1 = _A c := by rw [_A, _A, a1]
  rw [Nat.mod_mod, byte_addr, hA] at r2
  have ha2 : _a8 c2 = true := (a8_fin c1 c2 e2 p2).trans ha1
  obtain ⟨c3, t2, i3, pc3, a3, p3, s3, e3, b3⟩ :=
    sta_t2_a8 c2 _ _ bank false false true rfl i2 ha2
  have r3 := host_run_step _ _ _ _ r2 (host_step_qread _ _ _ _ _ _ _ _ _ t2)
  rw [pc2, pc1, pc_two] at r3
  exact ⟨c2, c3, _, r2, r3⟩

/-- C25 (counterexample): the host loop runs from `w65816_init` with reset vector 0x8000 and
the program LDA #$01; XBA; LDA #$00; TCD; LDA $10; STA $20 (bytes A9 01 EB A9 00 5B A5 10 85
20), with mem[0x0010] = 0x11, mem[0x0110] = 0x22 and NOPs elsewhere.  After 16 iterations the
opcode of LDA $10 is fetched in 8-bit mode with D = 0x0100.  Its data access reads address
0x0010, not (D + 0x10) mod 2^16 = 0x0110: A becomes 0x11, not 0x22; STA $20 then writes
address 0x0020 and leaves mem[0x0120] alone. -/
theorem direct_page_access_ignores_D :
    ∃ s, host_run 16 (host_init false
        (fun a => if a = 0xFFFC then 0x00 else if a = 0xFFFD then 0x80 else
          if a = 0x8000 then 0xA9 else if a = 0x8001 then 0x01 else
          if a = 0x8002 then 0xEB else if a = 0x8003 then 0xA9 else
          if a = 0x8004 then 0x00 else if a = 0x8005 then 0x5B else
          if a = 0x8006 then 0xA5 else if a = 0x8007 then 0x10 else
          if a = 0x8008 then 0x85 else if a = 0x8009 then 0x20 else
          if a = 0x0010 then 0x11 else if a = 0x0110 then 0x22 else 0xEA)) = some s ∧
      sync_out s.pins = true ∧ W65816_GET_ADDR s.pins = 0x8006 ∧ _GD s.pins = 0xA5 ∧
      _a8 s.cpu = true ∧ s.cpu.D = 0x0100 ∧
      (∃ r, host_tick 1 s = some r ∧ r.2 &&& W65816_VDA ≠ 0 ∧ r.2 &&& W65816_VPA = 0 ∧
        r.2 &&& W65816_RW ≠ 0 ∧ W65816_GET_ADDR r.2 = 0x0010 ∧
        W65816_GET_ADDR r.2 ≠ (r.1.D + 0x10) % 65536) ∧
      (∃ s3, host_run 3 s = some s3 ∧ sync_out s3.pins = true ∧ _A s3.cpu = 0x11 ∧
        s3.cpu.D = 0x0100) ∧
      (∃ r, host_tick 4 s = some r ∧ r.2 &&& W65816_VDA ≠ 0 ∧ r.2 &&& W65816_RW = 0 ∧
        W65816_GET_ADDR r.2 = 0x0020 ∧ r.1.D = 0x0100) ∧
      ∃ s6, host_run 6 s = some s6 ∧ sync_out s6.pins = true ∧
        s6.mem 0x0020 = 0x11 ∧ s6.mem 0x0120 = 0xEA := by
  refine ⟨(host_run 16 _).get (by decide), (Option.some_get _).symm, by decide, by decide,
    by decide, by decide, by decide, ?_, ?_, ?_, ?_⟩
  · exact ⟨(host_tick 1 _).get (by decide), (Option.some_get _).symm, by decide, by decide,
      by decide, by decide, by decide⟩
  · exact ⟨(host_run 3 _).get (by decide), (Option.some_get _).symm, by decide, by decide,
      by decide⟩
  · exact ⟨(host_tick 4 _).get (by decide), (Option.some_get _).symm, by decide, by decide,
      by decide, by decide⟩
  · exact ⟨(host_run 6 _).get (by decide), (Option.some_get _).symm, by decide, by decide,
      by decide⟩

/-- C25 (amended): for LDA d (0xA5) and STA d (0x85), fetched with no interrupt pending, the
data access goes to the address given by the operand byte alone, in the bank on the pins, for
every value `dp` of the direct register D: D is not added.  The first tick of either opcode
returns no opcode fetch and the second tick returns the data access: a read for LDA d, a write
of A for STA d.  In 8-bit mode (`_a8`) LDA d takes three ticks: the third one loads A with the
byte read and returns the next opcode fetch; STA d then also returns the next opcode fetch in
its third tick. -/
theorem direct_page_operand_only (c : w65816_t) (dp : Nat) (mem : Mem) (a bank : Nat) (rw : Bool)
    (hb : c.brk_flags = 0) (hi : c.irq_pip = 0) (hn : c.nmi_pip = 0) :
    (∃ s1 s2,
      host_run 1 (Sys.mk { c with D := dp } (qpins a 0xA5 rw true true bank).word mem) = some s1 ∧
      sync_out s1.pins = false ∧
      host_run 2 (Sys.mk { c with D := dp } (qpins a 0xA5 rw true true bank).word mem) = some s2 ∧
      sync_out s2.pins = false ∧ s2.pins &&& W65816_VDA ≠ 0 ∧ s2.pins &&& W65816_RW ≠ 0 ∧
      W65816_GET_ADDR s2.pins =
        mem ((c.PC + 1) % 65536 + bank % 256 * 65536) % 256 + bank % 256 * 65536) ∧
    (∃ s2,
      host_run 2 (Sys.mk { c with D := dp } (qpins a 0x85 rw true true bank).word mem) = some s2 ∧
      sync_out s2.pins = false ∧ s2.pins &&& W65816_VDA ≠ 0 ∧ s2.pins &&& W65816_RW = 0 ∧
      W65816_GET_ADDR s2.pins =
        mem ((c.PC + 1) % 65536 + bank % 256 * 65536) % 256 + bank % 256 * 65536 ∧
      W65816_GET_DATA s2.pins = _A c % 256 ∧
      s2.mem = (fun x =>
        if x = mem ((c.PC + 1) % 65536 + bank % 256 * 65536) % 256 + bank % 256 * 65536
        then _A c % 256 else mem x)) ∧
    (_a8 c = true →
      (∃ s3,
        host_run 3 (Sys.mk { c with D := dp } (qpins a 0xA5 rw true true bank).word mem) = some s3 ∧
        sync_out s3.pins = true ∧ s3.cpu.PC = (c.PC + 2) % 65536 ∧
        _A s3.cpu =
          mem (mem ((c.PC + 1) % 65536 + bank % 256 * 65536) % 256 + bank % 256 * 65536) % 256 ∧
        s3.mem = mem) ∧
      ∃ s3,
        host_run 3 (Sys.mk { c with D := dp } (qpins a 0x85 rw true true bank).word mem) = some s3 ∧
        sync_out s3.pins = true ∧
        s3.mem = (fun x =>
          if x = mem ((c.PC + 1) % 65536 + bank % 256 * 65536) % 256 + bank % 256 * 65536
          then _A c % 256 else mem x)) := by
  refine ⟨?_, ?_, ?_⟩
  · obtain ⟨c1, c2, r1, r2⟩ := run_ldad_access 0 _ { c with D := dp } mem a bank rw rfl hb hi hn
    refine ⟨_, _, r1, ?_, r2, ?_, qpins_VDA _ _ _ _ _, qpins_read _ _ _ _ _, ?_⟩
    · exact qpins_sync _ _ _ _ _ _
    · exact qpins_sync _ _ _ _ _ _
    · show W65816_GET_ADDR (qpins _ _ _ _ _ _).word = _
      rw [qpins_addr, byte_addr]
  · obtain ⟨c2, r2⟩ := run_stad_access 0 _ { c with D := dp } mem a bank rw rfl hb hi hn
    refine ⟨_, r2, ?_, qpins_VDA _ _ _ _ _, qpins_write _ _ _ _ _, ?_, ?_, rfl⟩
    · exact qpins_sync _ _ _ _ _ _
    · show W65816_GET_ADDR (qpins _ _ _ _ _ _).word = _
      rw [qpins_addr, byte_addr]
    · exact GET_DATA_word _
  · intro ha
    constructor
    · obtain ⟨c1, c2, c3, r1, r2, r3, pc3, a3, -⟩ :=
        run_ldad8 0 _ { c with D := dp } mem a bank rw rfl hb hi hn ha
      exact ⟨_, r3, qpins_sync _ _ _ _ _ _, pc3, a3, rfl⟩
    · obtain ⟨c2, c3, d3, r2, r3⟩ :=
        run_stad8 0 _ { c with D := dp } mem a bank rw rfl hb hi hn ha
      exact ⟨_, r3, qpins_sync _ _ _ _ _ _, rfl⟩

theorem direct_page_operand_only_witness :
    ({ (w65816_init false).1 with brk_flags := 0, PC := 0x8000 } : w65816_t).brk_flags = 0 ∧
    ∃ s2, host_run 2 (Sys.mk { (w65816_init false).1 with brk_flags := 0, PC := 0x8000, D := 0x0100 }
        (qpins 0x8000 0xA5 true true true 0).word
        (fun x => if x = 0x8001 then 0x10 else if x = 0x0010 then 0x11 else 0xEA)) = some s2 ∧
      W65816_GET_ADDR s2.pins = 0x0010 :=
  ⟨rfl,
    match (direct_page_operand_only { (w65816_init false).1 with brk_flags := 0, PC := 0x8000 }
      0x0100 (fun x => if x = 0x8001 then 0x10 else if x = 0x0010 then 0x11 else 0xEA)
      0x8000 0 true (by decide) (by decide) (by decide)).1 with
    | ⟨_, s2, _, _, h2, _, _, _, hA⟩ => ⟨s2, h2, hA⟩⟩

/-! ## The opcodes marked unimplemented -/

theorem tick_finish_with_IR (x : w65816_t) (i j p q : Nat) :
    (tick_finish { x with IR := i } p).1 =
      { (tick_finish { x with IR := j } q).1 with IR := i, PINS := p } := by
  simp only [tick_finish]
  split_ifs <;> rfl

theorem tick_finish_over (x : w65816_t) (i j p q : Nat) :
    (tick_finish { x with IR := i, PINS := q } p).1 =
      { (tick_finish { x with IR := j } p).1 with IR := i } := by
  simp only [tick_finish]
  split_ifs <;> rfl

/-- Sync tick of an opcode whose decoder case 0 is that of NOP: the state before the bottom of
the tick is the same for all such opcodes except for `IR`. -/
theorem nop_like_t0 (c : w65816_t) (a bank : Nat) (rw : Bool)
    (hb : c.brk_flags = 0) (hi : c.irq_pip = 0) (hn : c.nmi_pip = 0) :
    ∃ x : w65816_t, x.PC = (c.PC + 1) % 65536 ∧
      ∀ op, (∀ y p, w65816_decode (((op % 256) <<< 3) % 65536) y p = op_EA 0 y p) →
        w65816_tick c (qpins a op rw true true bank).word =
          some ((tick_finish { x with IR := ((((op % 256) <<< 3) % 65536) + 1) % 65536 }
              (qpins ((c.PC + 1) % 65536) op true false false bank).word).1,
            (qpins ((c.PC + 1) % 65536) op true false false bank).word) := by
  refine ⟨{ c with brk_flags := 0, irq_pip := c.irq_pip &&& 0x3FF,
                   nmi_pip := c.nmi_pip &&& 0x3FF, PC := (c.PC + 1) % 65536 }, rfl, ?_⟩
  intro op hd0
  rw [tick_sync_op c a op bank rw hb hi hn, hd0, opEA_0_word, Option.map_some',
    tick_finish_pair]
  rfl

/-- Second tick of an opcode whose decoder case 1 is that of NOP. -/
theorem nop_like_t1 (i1 : Nat) (hd1 : ∀ x p, w65816_decode i1 x p = op_EA 1 x p)
    (x : w65816_t) (a d bank pc : Nat) (hIR : x.IR = i1) (hpc : x.PC = pc) :
    w65816_tick x (qpins a d true false false bank).word =
      some ((tick_finish { x with IR := (i1 + 1) % 65536 }
          (qpins pc d true true true bank).word).1,
        (qpins pc d true true true bank).word) := by
  rw [tick_step_op x a d bank true false false rfl, hIR, hd1, opEA_1_word, Option.map_some',
    tick_finish_pair]
  subst hpc
  rfl

theorem decode_EA_0x (x : w65816_t) (p : Nat) :
    w65816_decode (((0xEA % 256) <<< 3) % 65536) x p = op_EA 0 x p := decode_EA_0 x p

theorem decode_EA_1x (x : w65816_t) (p : Nat) :
    w65816_decode (((((0xEA % 256) <<< 3) % 65536) + 1) % 65536) x p = op_EA 1 x p :=
  decode_EA_1 x p

/-- An opcode whose decoder cases 0 and 1 are those of NOP runs as NOP does: two ticks with the
pins of NOP, and the state of NOP except for the opcode held in `IR` (and, after the first
tick, for the opcode byte on the data lines of the stored pin word). -/
theorem nop_like (op : Nat)
    (hd0 : ∀ x p, w65816_decode (((op % 256) <<< 3) % 65536) x p = op_EA 0 x p)
    (hd1 : ∀ x p, w65816_decode (((((op % 256) <<< 3) % 65536) + 1) % 65536) x p = op_EA 1 x p)
    (c : w65816_t) (a bank d : Nat) (rw : Bool)
    (hb : c.brk_flags = 0) (hi : c.irq_pip = 0) (hn : c.nmi_pip = 0) :
    ∃ c1 n1 c2 n2,
      w65816_tick c (qpins a op rw true true bank).word =
        some (c1, (qpins ((c.PC + 1) % 65536) op true false false bank).word) ∧
      w65816_tick c (qpins a 0xEA rw true true bank).word =
        some (n1, (qpins ((c.PC + 1) % 65536) 0xEA true false false bank).word) ∧
      w65816_tick c1 (qpins ((c.PC + 1) % 65536) d true false false bank).word =
        some (c2, (qpins ((c.PC + 1) % 65536) d true true true bank).word) ∧
      w65816_tick n1 (qpins ((c.PC + 1) % 65536) d true false false bank).word =
        some (n2, (qpins ((c.PC + 1) % 65536) d true true true bank).word) ∧
      c1 = { n1 with IR := ((((op % 256) <<< 3) % 65536) + 1) % 65536, PINS := (qpins ((c.PC + 1) % 65536) op true false false bank).word } ∧
      c2 = { n2 with IR := ((((((op % 256) <<< 3) % 65536) + 1) % 65536) + 1) % 65536 } := by
  obtain ⟨x, hx, hall⟩ := nop_like_t0 c a bank rw hb hi hn
  have tW := hall op hd0
  have tN := hall 0xEA decode_EA_0x
  have e1 := tick_finish_with_IR x (((((op % 256) <<< 3) % 65536) + 1) % 65536)
    (((((0xEA % 256) <<< 3) % 65536) + 1) % 65536)
    (qpins ((c.PC + 1) % 65536) op true false false bank).word
    (qpins ((c.PC + 1) % 65536) 0xEA true false false bank).word
  have pcN := tick_finish_PC { x with IR := ((((0xEA % 256) <<< 3) % 65536) + 1) % 65536 }
    (qpins ((c.PC + 1) % 65536) 0xEA true false false bank).word
  have irN := tick_finish_IR { x with IR := ((((0xEA % 256) <<< 3) % 65536) + 1) % 65536 }
    (qpins ((c.PC + 1) % 65536) 0xEA true false false bank).word
  generalize (tick_finish { x with IR := ((((0xEA % 256) <<< 3) % 65536) + 1) % 65536 }
    (qpins ((c.PC + 1) % 65536) 0xEA true false false bank).word).1 = n1 at tN e1 pcN irN
  generalize (tick_finish { x with IR := ((((op % 256) <<< 3) % 65536) + 1) % 65536 }
    (qpins ((c.PC + 1) % 65536) op true false false bank).word).1 = c1 at tW e1
  have pcN1 : n1.PC = (c.PC + 1) % 65536 := pcN.trans hx
  have irN1 : n1.IR = ((((0xEA % 256) <<< 3) % 65536) + 1) % 65536 := irN
  have pcW : c1.PC = (c.PC + 1) % 65536 := by rw [e1]; exact pcN1
  have irW : c1.IR = ((((op % 256) <<< 3) % 65536) + 1) % 65536 := by rw [e1]
  have uW := nop_like_t1 _ hd1 c1 ((c.PC + 1) % 65536) d bank _ irW pcW
  have uN := nop_like_t1 _ decode_EA_1x n1 ((c.PC + 1) % 65536) d bank _ irN1 pcN1
  refine ⟨c1, n1, _, _, tW, tN, uW, uN, e1, ?_⟩
  rw [e1]
  exact tick_finish_over n1 _ _ _ _


theorem hd0_CB (x : w65816_t) (p : Nat) :
    w65816_decode (((0xCB % 256) <<< 3) % 65536) x p = op_EA 0 x p := decode_CB_0 x p
theorem hd1_CB (x : w65816_t) (p : Nat) :
    w65816_decode (((((0xCB % 256) <<< 3) % 65536) + 1) % 65536) x p = op_EA 1 x p :=
  decode_CB_1 x p
theorem hd0_D4 (x : w65816_t) (p : Nat) :
    w65816_decode (((0xD4 % 256) <<< 3) % 65536) x p = op_EA 0 x p := decode_D4_0 x p
theorem hd1_D4 (x : w65816_t) (p : Nat) :
    w65816_decode (((((0xD4 % 256) <<< 3) % 65536) + 1) % 65536) x p = op_EA 1 x p :=
  decode_D4_1 x p
theorem hd0_F4 (x : w65816_t) (p : Nat) :
    w65816_decode (((0xF4 % 256) <<< 3) % 65536) x p = op_EA 0 x p := decode_F4_0 x p
theorem hd1_F4 (x : w65816_t) (p : Nat) :
    w65816_decode (((((0xF4 % 256) <<< 3) % 65536) + 1) % 65536) x p = op_EA 1 x p :=
  decode_F4_1 x p

theorem run_jsl (c : w65816_t) (a bank d : Nat) (rw : Bool)
    (hb : c.brk_flags = 0) (hi : c.irq_pip = 0) (hn : c.nmi_pip = 0) :
    ∃ c1 c2 c3,
      w65816_tick c (qpins a 0x22 rw true true bank).word =
        some (c1, (qpins a 0x22 true false false bank).word) ∧
      w65816_tick c1 (qpins a d true false false bank).word =
        some (c2, (qpins a d true false false bank).word) ∧
      w65816_tick c2 (qpins a d true false false bank).word =
        some (c3, (qpins ((c.PC + 1) % 65536) d true true true bank).word) := by
  obtain ⟨c1, t0, i1, pc1, -⟩ := jsl_t0 c a bank rw hb hi hn
  obtain ⟨c2, t1, i2, pc2, -⟩ := jsl_t1 c1 a d bank true false false rfl i1
  obtain ⟨c3, t2, -⟩ := jsl_t2 c2 a d bank true false false rfl i2
  rw [pc2, pc1] at t2
  exact ⟨c1, c2, c3, t0, t1, t2⟩

theorem run_per (c : w65816_t) (a bank d : Nat) (rw : Bool)
    (hb : c.brk_flags = 0) (hi : c.irq_pip = 0) (hn : c.nmi_pip = 0) :
    ∃ c1 c2 c3,
      w65816_tick c (qpins a 0x62 rw true true bank).word =
        some (c1, (qpins ((c.PC + 1) % 65536) 0x62 true false false bank).word) ∧
      w65816_tick c1 (qpins ((c.PC + 1) % 65536) d true false false bank).word =
        some (c2, (qpins ((c.PC + 1) % 65536) d true false false bank).word) ∧
      w65816_tick c2 (qpins ((c.PC + 1) % 65536) d true false false bank).word =
        some (c3, (qpins ((c.PC + 1) % 65536) d true true true bank).word) := by
  obtain ⟨c1, t0, i1, pc1, -⟩ := per_t0 c a bank rw hb hi hn
  obtain ⟨c2, t1, i2, pc2, -⟩ := per_t1 c1 ((c.PC + 1) % 65536) d bank true false false rfl i1
  obtain ⟨c3, t2, -⟩ := per_t2 c2 ((c.PC + 1) % 65536) d bank true false false rfl i2
  rw [pc2, pc1] at t2
  exact ⟨c1, c2, c3, t0, t1, t2⟩

theorem run_stp (c : w65816_t) (a bank d : Nat) (rw : Bool)
    (hb : c.brk_flags = 0) (hi : c.irq_pip = 0) (hn : c.nmi_pip = 0) :
    ∃ c1 c2 c3,
      w65816_tick c (qpins a 0xDB rw true true bank).word =
        some (c1, (qpins ((c.PC + 1) % 65536) 0xDB true false false bank).word) ∧
      w65816_tick c1 (qpins ((c.PC + 1) % 65536) d true false false bank).word =
        some (c2, (qpins ((c.PC + 1) % 65536) d true false false bank).word) ∧
      w65816_tick c2 (qpins ((c.PC + 1) % 65536) d true false false bank).word =
        some (c3, (qpins ((c.PC + 1) % 65536) d true true true bank).word) := by
  obtain ⟨c1, t0, i1, pc1, -⟩ := stp_t0 c a bank rw hb hi hn
  obtain ⟨c2, t1, i2, pc2, -⟩ := stp_t1 c1 ((c.PC + 1) % 65536) d bank true false false rfl i1
  obtain ⟨c3, t2, -⟩ := stp_t2 c2 ((c.PC + 1) % 65536) d bank true false false rfl i2
  rw [pc2, pc1] at t2
  exact ⟨c1, c2, c3, t0, t1, t2⟩

theorem low_or (h z : Nat) (hh : h &&& 0xFF = 0) : (h ||| (z &&& 0xFF)) &&& 0xFF = z &&& 0xFF := by
  rw [Nat.and_comm, Nat.and_or_distrib_left, Nat.and_comm 0xFF h, hh, Nat.zero_or, Nat.and_comm,
    Nat.and_assoc, Nat.and_self]

theorem fin_S_low (e s : Nat) :
    (if e ≠ 0 then 0x0100 ||| (s &&& 0xFF) else s) &&& 0xFF = s &&& 0xFF := by
  split_ifs
  · exact low_or 0x0100 s (by decide)
  · rfl

theorem high_low (s : Nat) : (s &&& 0xFF00) &&& 0xFF = 0 := by
  rw [Nat.and_assoc]
  exact Nat.and_zero s

theorem succ_low_ne (x : Nat) : (x &&& 0xFF) + 1 &&& 0xFF ≠ x &&& 0xFF := by
  rw [and_FF, and_FF]
  omega

/-- RTL as coded: two ticks with the pins of NOP; the low byte of S is incremented. -/
theorem run_rtl (c : w65816_t) (a bank d : Nat) (rw : Bool)
    (hb : c.brk_flags = 0) (hi : c.irq_pip = 0) (hn : c.nmi_pip = 0) :
    ∃ c1 c2,
      w65816_tick c (qpins a 0x6B rw true true bank).word =
        some (c1, (qpins ((c.PC + 1) % 65536) 0x6B true false false bank).word) ∧
      w65816_tick c1 (qpins ((c.PC + 1) % 65536) d true false false bank).word =
        some (c2, (qpins ((c.PC + 1) % 65536) d true true true bank).word) ∧
      c2.S &&& 0xFF = (c.S &&& 0xFF) + 1 &&& 0xFF := by
  obtain ⟨c1, t0, i1, pc1, a1, p1, s1, -⟩ := rtl_t0 c a bank rw hb hi hn
  obtain ⟨c2, t1, i2, pc2, a2, p2, s2, -⟩ :=
    rtl_t1 c1 ((c.PC + 1) % 65536) d bank true false false rfl i1
  rw [pc1] at t1
  refine ⟨c1, c2, t0, t1, ?_⟩
  rw [s2, fin_S_low, low_or _ _ (high_low _), _S, s1, fin_S_low]

/-- NOP keeps the low byte of S. -/
theorem run_nop_S (c : w65816_t) (a bank d : Nat) (rw : Bool)
    (hb : c.brk_flags = 0) (hi : c.irq_pip = 0) (hn : c.nmi_pip = 0) :
    ∃ n1 n2,
      w65816_tick c (qpins a 0xEA rw true true bank).word =
        some (n1, (qpins ((c.PC + 1) % 65536) 0xEA true false false bank).word) ∧
      w65816_tick n1 (qpins ((c.PC + 1) % 65536) d true false false bank).word =
        some (n2, (qpins ((c.PC + 1) % 65536) d true true true bank).word) ∧
      n2.S &&& 0xFF = c.S &&& 0xFF := by
  obtain ⟨c1, t0, i1, pc1, a1, p1, s1, -⟩ := nop_t0 c a bank rw hb hi hn
  obtain ⟨c2, t1, i2, pc2, a2, p2, s2, -⟩ :=
    nop_t1 c1 ((c.PC + 1) % 65536) d bank true false false rfl i1
  rw [pc1] at t1
  refine ⟨c1, c2, t0, t1, ?_⟩
  rw [s2, fin_S_low, s1, fin_S_low]

/-- C27 (counterexample): WAI (0xCB) is executed as a NOP.  Two runs of the host loop from
`w65816_init` with reset vector 0x8000 over NOPs, one of them with WAI at 0x8000.  Neither run
reaches an assertion.  After 8 iterations (first tick of the instruction) the pins of the two
runs are equal and the states differ only in `IR` and in the opcode byte on the data lines of
the stored pin word; after 9 iterations both have returned the next opcode fetch and the states
differ only in `IR`; after 10 iterations, when the next opcode is decoded, pins and states are
equal. -/
theorem wai_runs_as_nop :
    (∃ w n, host_run 8 (host_init false
          (fun a => if a = 0xFFFC then 0x00 else if a = 0xFFFD then 0x80 else
            if a = 0x8000 then 0xCB else 0xEA)) = some w ∧
        host_run 8 (host_init false
          (fun a => if a = 0xFFFC then 0x00 else if a = 0xFFFD then 0x80 else 0xEA)) = some n ∧
        w.pins = n.pins ∧ sync_out w.pins = false ∧
        w.cpu = { n.cpu with IR := 0x659, PINS := W65816_SET_DATA n.cpu.PINS 0xCB }) ∧
    (∃ w n, host_run 9 (host_init false
          (fun a => if a = 0xFFFC then 0x00 else if a = 0xFFFD then 0x80 else
            if a = 0x8000 then 0xCB else 0xEA)) = some w ∧
        host_run 9 (host_init false
          (fun a => if a = 0xFFFC then 0x00 else if a = 0xFFFD then 0x80 else 0xEA)) = some n ∧
        w.pins = n.pins ∧ sync_out w.pins = true ∧ w.cpu = { n.cpu with IR := 0x65A }) ∧
    ∃ w n, host_run 10 (host_init false
          (fun a => if a = 0xFFFC then 0x00 else if a = 0xFFFD then 0x80 else
            if a = 0x8000 then 0xCB else 0xEA)) = some w ∧
        host_run 10 (host_init false
          (fun a => if a = 0xFFFC then 0x00 else if a = 0xFFFD then 0x80 else 0xEA)) = some n ∧
        w.pins = n.pins ∧ w.cpu = n.cpu := by
  refine ⟨?_, ?_, ?_⟩
  · exact ⟨(host_run 8 _).get (by decide), (host_run 8 _).get (by decide),
      (Option.some_get _).symm, (Option.some_get _).symm, by decide, by decide, by decide⟩
  · exact ⟨(host_run 9 _).get (by decide), (host_run 9 _).get (by decide),
      (Option.some_get _).symm, (Option.some_get _).symm, by decide, by decide, by decide⟩
  · exact ⟨(host_run 10 _).get (by decide), (host_run 10 _).get (by decide),
      (Option.some_get _).symm, (Option.some_get _).symm, by decide, by decide⟩

/-- C27 (amended): none of the opcodes marked unimplemented reaches an assertion when it is
fetched with no interrupt pending, and six of them differ from NOP (0xEA) in the pins or the
state: JSL 0x22, PER 0x62 and STP 0xDB take three ticks (their second tick returns no opcode
fetch, that of NOP does), BRL 0x82 and JML 0xDC return the next opcode fetch in their first
tick, and RTL 0x6B takes two ticks with the pins of NOP but increments the low byte of S.
WAI 0xCB, PEI 0xD4 and PEA 0xF4 are executed as NOP: two ticks that return the pins of NOP
(with the opcode byte itself on the data lines after the first tick) and the state of NOP
except for the opcode held in `IR` and, after the first tick, in the stored pin word.  Here
`d` is the byte the host puts on the data lines after the first tick. -/
theorem unimplemented_opcodes (c : w65816_t) (a bank d : Nat) (rw : Bool)
    (hb : c.brk_flags = 0) (hi : c.irq_pip = 0) (hn : c.nmi_pip = 0) :
    (∃ n1 n2,
      w65816_tick c (qpins a 0xEA rw true true bank).word =
        some (n1, (qpins ((c.PC + 1) % 65536) 0xEA true false false bank).word) ∧
      w65816_tick n1 (qpins ((c.PC + 1) % 65536) d true false false bank).word =
        some (n2, (qpins ((c.PC + 1) % 65536) d true true true bank).word) ∧
      n2.S &&& 0xFF = c.S &&& 0xFF ∧
      ∀ op, op = 0xCB ∨ op = 0xD4 ∨ op = 0xF4 → ∃ c1 c2,
        w65816_tick c (qpins a op rw true true bank).word =
          some (c1, (qpins ((c.PC + 1) % 65536) op true false false bank).word) ∧
        w65816_tick c1 (qpins ((c.PC + 1) % 65536) d true false false bank).word =
          some (c2, (qpins ((c.PC + 1) % 65536) d true true true bank).word) ∧
        c1 = { n1 with IR := op * 8 + 1, PINS := (qpins ((c.PC + 1) % 65536) op true false false bank).word } ∧
        c2 = { n2 with IR := op * 8 + 2 }) ∧
    (∀ op, op = 0x22 ∨ op = 0x62 ∨ op = 0xDB → ∃ a1 c1 c2 c3,
      w65816_tick c (qpins a op rw true true bank).word =
        some (c1, (qpins a1 op true false false bank).word) ∧
      w65816_tick c1 (qpins a1 d true false false bank).word =
        some (c2, (qpins a1 d true false false bank).word) ∧
      w65816_tick c2 (qpins a1 d true false false bank).word =
        some (c3, (qpins ((c.PC + 1) % 65536) d true true true bank).word)) ∧
    (∀ op, op = 0x82 ∨ op = 0xDC → ∃ c1,
      w65816_tick c (qpins a op rw true true bank).word =
        some (c1, (qpins ((c.PC + 1) % 65536) op true true true bank).word)) ∧
    ∃ c1 c2,
      w65816_tick c (qpins a 0x6B rw true true bank).word =
        some (c1, (qpins ((c.PC + 1) % 65536) 0x6B true false false bank).word) ∧
      w65816_tick c1 (qpins ((c.PC + 1) % 65536) d true false false bank).word =
        some (c2, (qpins ((c.PC + 1) % 65536) d true true true bank).word) ∧
      c2.S &&& 0xFF = (c.S &&& 0xFF) + 1 &&& 0xFF ∧ c2.S &&& 0xFF ≠ c.S &&& 0xFF := by
  refine ⟨?_, ?_, ?_, ?_⟩
  · obtain ⟨n1, n2, tN, uN, hS⟩ := run_nop_S c a bank d rw hb hi hn
    refine ⟨n1, n2, tN, uN, hS, ?_⟩
    have key : ∀ op,
        (∀ x p, w65816_decode (((op % 256) <<< 3) % 65536) x p = op_EA 0 x p) →
        (∀ x p, w65816_decode (((((op % 256) <<< 3) % 65536) + 1) % 65536) x p = op_EA 1 x p) →
        ∃ c1 c2,
          w65816_tick c (qpins a op rw true true bank).word =
            some (c1, (qpins ((c.PC + 1) % 65536) op true false false bank).word) ∧
          w65816_tick c1 (qpins ((c.PC + 1) % 65536) d true false false bank).word =
            some (c2, (qpins ((c.PC + 1) % 65536) d true true true bank).word) ∧
          c1 = { n1 with IR := ((((op % 256) <<< 3) % 65536) + 1) % 65536, PINS := (qpins ((c.PC + 1) % 65536) op true false false bank).word } ∧
          c2 = { n2 with IR := ((((((op % 256) <<< 3) % 65536) + 1) % 65536) + 1) % 65536 } := by
      intro op h0 h1
      obtain ⟨c1, m1, c2, m2, tW, tM, uW, uM, e1, e2⟩ := nop_like op h0 h1 c a bank d rw hb hi hn
      have q1 : m1 = n1 := by
        have := tM.symm.trans tN
        exact (Prod.mk.inj (Option.some.inj this)).1
      subst q1
      have q2 : m2 = n2 := by
        have := uM.symm.trans uN
        exact (Prod.mk.inj (Option.some.inj this)).1
      subst q2
      exact ⟨c1, c2, tW, uW, e1, e2⟩
    intro op hop
    rcases hop with h | h | h
    · subst h; exact key 0xCB hd0_CB hd1_CB
    · subst h; exact key 0xD4 hd0_D4 hd1_D4
    · subst h; exact key 0xF4 hd0_F4 hd1_F4
  · intro op hop
    rcases hop with h | h | h
    · subst h
      obtain ⟨c1, c2, c3, h1, h2, h3⟩ := run_jsl c a bank d rw hb hi hn
      exact ⟨_, c1, c2, c3, h1, h2, h3⟩
    · subst h
      obtain ⟨c1, c2, c3, h1, h2, h3⟩ := run_per c a bank d rw hb hi hn
      exact ⟨_, c1, c2, c3, h1, h2, h3⟩
    · subst h
      obtain ⟨c1, c2, c3, h1, h2, h3⟩ := run_stp c a bank d rw hb hi hn
      exact ⟨_, c1, c2, c3, h1, h2, h3⟩
  · intro op hop
    rcases hop with h | h
    · subst h
      obtain ⟨c1, t0, -⟩ := brl_t0 c a bank rw hb hi hn
      exact ⟨c1, t0⟩
    · subst h
      obtain ⟨c1, t0, -⟩ := jml_t0 c a bank rw hb hi hn
      exact ⟨c1, t0⟩
  · obtain ⟨c1, c2, h1, h2, hS⟩ := run_rtl c a bank d rw hb hi hn
    exact ⟨c1, c2, h1, h2, hS, by rw [hS]; exact succ_low_ne _⟩

theorem unimplemented_opcodes_witness :
    ({ (w65816_init false).1 with brk_flags := 0 } : w65816_t).brk_flags = 0 ∧
    ∃ c1, w65816_tick { (w65816_init false).1 with brk_flags := 0 }
        (qpins 0x8000 0x82 true true true 0).word =
      some (c1, (qpins 1 0x82 true true true 0).word) :=
  ⟨rfl, (unimplemented_opcodes { (w65816_init false).1 with brk_flags := 0 } 0x8000 0 0xEA true
    (by decide) (by decide) (by decide)).2.2.1 0x82 (Or.inl rfl)⟩

/-! ## The counters of the CGIA -/

/-- What `cgia_tick` does after `_cgia_tick` leaves the counters, the line buffer and the frame
buffer alone. -/
theorem cgia_tick_frame {F : Type} (m : cgia_header) (f : cgia_firmware F) (s : cgia_t F)
    (p : Nat) :
    (cgia_tick m f s p).1.h_count = (_cgia_tick m f s p).1.h_count ∧
    (cgia_tick m f s p).1.h_period = (_cgia_tick m f s p).1.h_period ∧
    (cgia_tick m f s p).1.l_count = (_cgia_tick m f s p).1.l_count ∧
    (cgia_tick m f s p).1.active_line = (_cgia_tick m f s p).1.active_line ∧
    (cgia_tick m f s p).1.linebuffer = (_cgia_tick m f s p).1.linebuffer ∧
    (cgia_tick m f s p).1.fb = (_cgia_tick m f s p).1.fb := by
  simp only [cgia_tick]
  generalize _cgia_tick m f s p = r
  simp only [cgia_reg_access]
  split_ifs <;> exact ⟨rfl, rfl, rfl, rfl, rfl, rfl⟩

theorem cgia_next_line_frame {F : Type} (m : cgia_header) (s : cgia_t F) :
    (cgia_next_line m s).h_count = s.h_count ∧ (cgia_next_line m s).h_period = s.h_period ∧
    (cgia_next_line m s).active_line = s.active_line ∧
    (cgia_next_line m s).linebuffer = s.linebuffer ∧ (cgia_next_line m s).fb = s.fb := by
  simp only [cgia_next_line]
  split_ifs <;> exact ⟨rfl, rfl, rfl, rfl, rfl⟩

theorem cgia_rasterize_frame {F : Type} (m : cgia_header) (f : cgia_firmware F) (s : cgia_t F) :
    (cgia_rasterize m f s).h_count = s.h_count ∧ (cgia_rasterize m f s).h_period = s.h_period ∧
    (cgia_rasterize m f s).l_count = s.l_count ∧ (cgia_rasterize m f s).fb = s.fb := by
  simp only [cgia_rasterize]
  split_ifs <;> exact ⟨rfl, rfl, rfl, rfl⟩

theorem cgia_copy_row_frame {F : Type} (m : cgia_header) (s : cgia_t F) :
    (cgia_copy_row m s).h_count = s.h_count ∧ (cgia_copy_row m s).h_period = s.h_period ∧
    (cgia_copy_row m s).l_count = s.l_count ∧ (cgia_copy_row m s).active_line = s.active_line ∧
    (cgia_copy_row m s).linebuffer = s.linebuffer :=
  ⟨rfl, rfl, rfl, rfl, rfl⟩

theorem cgia_tick_h_period {F : Type} (m : cgia_header) (f : cgia_firmware F) (s : cgia_t F)
    (p : Nat) : (cgia_tick m f s p).1.h_period = s.h_period := by
  rw [(cgia_tick_frame m f s p).2.1]
  simp only [_cgia_tick]
  split_ifs
  · rw [(cgia_copy_row_frame _ _).2.1, (cgia_rasterize_frame _ _ _).2.1,
      (cgia_next_line_frame _ _).2.1]
  · rfl

theorem cgia_tick_h_count {F : Type} (m : cgia_header) (f : cgia_firmware F) (s : cgia_t F)
    (p : Nat) :
    (cgia_tick m f s p).1.h_count =
      if s.h_count + m.CGIA_FIXEDPOINT_SCALE ≥ s.h_period
      then s.h_count + m.CGIA_FIXEDPOINT_SCALE - s.h_period
      else s.h_count + m.CGIA_FIXEDPOINT_SCALE := by
  rw [(cgia_tick_frame m f s p).1]
  simp only [_cgia_tick]
  split_ifs
  · rw [(cgia_copy_row_frame _ _).1, (cgia_rasterize_frame _ _ _).1,
      (cgia_next_line_frame _ _).1]
  · rfl

theorem cgia_run_h_period {F : Type} (m : cgia_header) (f : cgia_firmware F) (ps : List Nat) :
    ∀ s : cgia_t F, (cgia_run m f ps s).h_period = s.h_period := by
  induction ps with
  | nil => intro s; rfl
  | cons p ps ih =>
    intro s
    rw [cgia_run, ih, cgia_tick_h_period]

theorem cgia_run_append {F : Type} (m : cgia_header) (f : cgia_firmware F) (ps : List Nat)
    (p : Nat) :
    ∀ s : cgia_t F, cgia_run m f (ps ++ [p]) s = (cgia_tick m f (cgia_run m f ps s) p).1 := by
  induction ps with
  | nil => intro s; rfl
  | cons q ps ih =>
    intro s
    rw [List.cons_append, cgia_run, ih, cgia_run]

/-- With a period of at least one tick step the counter stays in `[0, h_period)`. -/
theorem cgia_run_h_count_lt {F : Type} (m : cgia_header) (f : cgia_firmware F) (ps : List Nat) :
    ∀ s : cgia_t F, 0 < m.CGIA_FIXEDPOINT_SCALE → m.CGIA_FIXEDPOINT_SCALE ≤ s.h_period →
      0 ≤ s.h_count → s.h_count < s.h_period →
      0 ≤ (cgia_run m f ps s).h_count ∧ (cgia_run m f ps s).h_count < s.h_period := by
  induction ps with
  | nil => intro s _ _ h0 h1; exact ⟨h0, h1⟩
  | cons p ps ih =>
    intro s hS hP h0 h1
    rw [cgia_run]
    have hp := cgia_tick_h_period m f s p
    have hc := cgia_tick_h_count m f s p
    have := ih (cgia_tick m f s p).1 hS (by rw [hp]; exact hP)
      (by rw [hc]; split_ifs <;> omega) (by rw [hc, hp]; split_ifs <;> omega)
    rw [hp] at this
    exact this

/-- With a period below one tick step every tick rolls over and the counter grows by the
difference: after `n` ticks it is `n * (scale - h_period)`. -/
theorem cgia_run_h_count_drift {F : Type} (m : cgia_header) (f : cgia_firmware F)
    (ps : List Nat) :
    ∀ s : cgia_t F, s.h_period < m.CGIA_FIXEDPOINT_SCALE → 0 ≤ s.h_count →
      (cgia_run m f ps s).h_count =
        s.h_count + ps.length * (m.CGIA_FIXEDPOINT_SCALE - s.h_period) := by
  induction ps with
  | nil => intro s _ _; simp [cgia_run]
  | cons p ps ih =>
    intro s hP h0
    rw [cgia_run]
    have hp := cgia_tick_h_period m f s p
    have hc := cgia_tick_h_count m f s p
    rw [if_pos (by omega)] at hc
    rw [ih (cgia_tick m f s p).1 (by rw [hp]; exact hP) (by rw [hc]; omega), hp, hc,
      List.length_cons]
    push_cast
    ring

theorem cgia_init_fields {F : Type} (m : cgia_header) (tick_hz : Int) (fb : Int → Nat) (fw : F)
    (vpu : cgia_t F) (h : cgia_init m tick_hz fb fw = some vpu) :
    (0 < tick_hz ∧ tick_hz < m.MODE_BIT_CLK_KHZ * 1000) ∧
    vpu.h_count = 0 ∧ vpu.l_count = 0 ∧ vpu.active_line = 0 ∧
    vpu.h_period = cgia_int32 (Int.tdiv
      (m.MODE_H_TOTAL_PIXELS * tick_hz * m.CGIA_FIXEDPOINT_SCALE) (m.MODE_BIT_CLK_KHZ * 1000)) := by
  unfold cgia_init at h
  split_ifs at h with hc
  cases h
  exact ⟨hc, rfl, rfl, rfl, rfl⟩

theorem cgia_int32_id (x : Int) (h0 : 0 ≤ x) (h1 : x < 2 ^ 31) : cgia_int32 x = x := by
  unfold cgia_int32
  have e : (x + 2 ^ 31) % 2 ^ 32 = x + 2 ^ 31 := Int.emod_eq_of_lt (by omega) (by omega)
  rw [e]
  omega

/-- The period computed by `cgia_init` is below one tick step when the tick rate is below the
line rate (`MODE_H_TOTAL_PIXELS * tick_hz < MODE_BIT_CLK_KHZ * 1000`). -/
theorem cgia_period_small (m : cgia_header) (tick_hz : Int)
    (hH : 0 ≤ m.MODE_H_TOTAL_PIXELS) (hS : 0 < m.CGIA_FIXEDPOINT_SCALE)
    (hS31 : m.CGIA_FIXEDPOINT_SCALE ≤ 2 ^ 31) (ht : 0 < tick_hz)
    (hlt : m.MODE_H_TOTAL_PIXELS * tick_hz < m.MODE_BIT_CLK_KHZ * 1000) :
    cgia_int32 (Int.tdiv (m.MODE_H_TOTAL_PIXELS * tick_hz * m.CGIA_FIXEDPOINT_SCALE)
      (m.MODE_BIT_CLK_KHZ * 1000)) < m.CGIA_FIXEDPOINT_SCALE := by
  have h0 : 0 ≤ m.MODE_H_TOTAL_PIXELS * tick_hz := Int.mul_nonneg hH (le_of_lt ht)
  have hK : 0 < m.MODE_BIT_CLK_KHZ * 1000 := lt_of_le_of_lt h0 hlt
  have hn : 0 ≤ m.MODE_H_TOTAL_PIXELS * tick_hz * m.CGIA_FIXEDPOINT_SCALE :=
    Int.mul_nonneg h0 (le_of_lt hS)
  rw [Int.tdiv_eq_ediv hn (le_of_lt hK)]
  have hlt2 : m.MODE_H_TOTAL_PIXELS * tick_hz * m.CGIA_FIXEDPOINT_SCALE <
      m.CGIA_FIXEDPOINT_SCALE * (m.MODE_BIT_CLK_KHZ * 1000) := by
    rw [mul_comm m.CGIA_FIXEDPOINT_SCALE]
    exact mul_lt_mul_of_pos_right hlt hS
  have hq : m.MODE_H_TOTAL_PIXELS * tick_hz * m.CGIA_FIXEDPOINT_SCALE /
      (m.MODE_BIT_CLK_KHZ * 1000) < m.CGIA_FIXEDPOINT_SCALE :=
    Int.ediv_lt_of_lt_mul hK hlt2
  have hq0 : 0 ≤ m.MODE_H_TOTAL_PIXELS * tick_hz * m.CGIA_FIXEDPOINT_SCALE /
      (m.MODE_BIT_CLK_KHZ * 1000) := Int.ediv_nonneg hn (le_of_lt hK)
  rw [cgia_int32_id _ hq0 (by omega)]
  exact hq

/-- C28: `h_count < h_period` after every tick holds exactly when the period computed by
`cgia_init` is at least one tick step (`CGIA_FIXEDPOINT_SCALE <= h_period`).  The assertion of
`cgia_init` also admits tick rates below the line rate
(`MODE_H_TOTAL_PIXELS * tick_hz < MODE_BIT_CLK_KHZ * 1000`), for which the period is smaller than
the step: then every tick rolls over, the single subtraction of `_cgia_tick` leaves
`h_count = n * (scale - h_period)` after `n` ticks, and `h_count < h_period` is false after
every tick from the `h_period`-th on (from the first on when `h_period = 0`). -/
theorem cgia_h_count_bound {F : Type} (m : cgia_header) (f : cgia_firmware F) (tick_hz : Int)
    (fb : Int → Nat) (fw : F) (vpu : cgia_t F) (hS : 0 < m.CGIA_FIXEDPOINT_SCALE)
    (h : cgia_init m tick_hz fb fw = some vpu) :
    (m.CGIA_FIXEDPOINT_SCALE ≤ vpu.h_period → ∀ ps,
      (cgia_run m f ps vpu).h_count < (cgia_run m f ps vpu).h_period) ∧
    (vpu.h_period < m.CGIA_FIXEDPOINT_SCALE → ∀ ps, ps ≠ [] → vpu.h_period ≤ ps.length →
      (cgia_run m f ps vpu).h_count = ps.length * (m.CGIA_FIXEDPOINT_SCALE - vpu.h_period) ∧
      ¬ (cgia_run m f ps vpu).h_count < (cgia_run m f ps vpu).h_period) ∧
    (0 ≤ m.MODE_H_TOTAL_PIXELS → m.CGIA_FIXEDPOINT_SCALE ≤ 2 ^ 31 →
      m.MODE_H_TOTAL_PIXELS * tick_hz < m.MODE_BIT_CLK_KHZ * 1000 →
      vpu.h_period < m.CGIA_FIXEDPOINT_SCALE) := by
  obtain ⟨⟨ht, -⟩, h0, -, -, hp⟩ := cgia_init_fields m tick_hz fb fw vpu h
  refine ⟨?_, ?_, ?_⟩
  · intro hP ps
    rw [cgia_run_h_period]
    exact (cgia_run_h_count_lt m f ps vpu hS hP (by rw [h0]) (by rw [h0]; omega)).2
  · intro hP ps hne hlen
    have hd := cgia_run_h_count_drift m f ps vpu hP (by rw [h0])
    rw [h0, zero_add] at hd
    refine ⟨hd, ?_⟩
    rw [cgia_run_h_period, hd]
    have hl : 1 ≤ (ps.length : Int) := by
      have : 0 < ps.length := List.length_pos.2 hne
      omega
    have h1 : 1 ≤ m.CGIA_FIXEDPOINT_SCALE - vpu.h_period := by omega
    have h2 : (ps.length : Int) * 1 ≤ ps.length * (m.CGIA_FIXEDPOINT_SCALE - vpu.h_period) :=
      Int.mul_le_mul_of_nonneg_left h1 (by omega)
    omega
  · intro hH hS31 hlt
    rw [hp]
    exact cgia_period_small m tick_hz hH hS hS31 ht hlt

theorem cgia_h_count_bound_witness :
    ∃ vpu : cgia_t Unit,
      cgia_init (cgia_header.mk 256 800 25200 525 10 2 33 2 2 384 768 8 1 2
        (fun p => p % 256) (fun p => p / 256 % 256) (fun p d => p % 256 + d * 256))
        1 (fun _ => 0) () = some vpu ∧
      vpu.h_period = 0 ∧
      (cgia_run (cgia_header.mk 256 800 25200 525 10 2 33 2 2 384 768 8 1 2
        (fun p => p % 256) (fun p => p / 256 % 256) (fun p d => p % 256 + d * 256))
        (cgia_firmware.mk (fun w r _ l => (w, r, l)) (fun w r => (w, r))) [0] vpu).h_count = 256 ∧
      ¬ (cgia_run (cgia_header.mk 256 800 25200 525 10 2 33 2 2 384 768 8 1 2
        (fun p => p % 256) (fun p => p / 256 % 256) (fun p d => p % 256 + d * 256))
        (cgia_firmware.mk (fun w r _ l => (w, r, l)) (fun w r => (w, r))) [0] vpu).h_count <
        (cgia_run (cgia_header.mk 256 800 25200 525 10 2 33 2 2 384 768 8 1 2
        (fun p => p % 256) (fun p => p / 256 % 256) (fun p d => p % 256 + d * 256))
        (cgia_firmware.mk (fun w r _ l => (w, r, l)) (fun w r => (w, r))) [0] vpu).h_period :=
  ⟨_, rfl, rfl,
    ((cgia_h_count_bound (cgia_header.mk 256 800 25200 525 10 2 33 2 2 384 768 8 1 2
        (fun p => p % 256) (fun p => p / 256 % 256) (fun p d => p % 256 + d * 256))
      (cgia_firmware.mk (fun w r _ l => (w, r, l)) (fun w r => (w, r))) 1 (fun _ => 0) () _
      (by decide) rfl).2.1 (by decide) [0] (by decide) (by decide)).1,
    ((cgia_h_count_bound (cgia_header.mk 256 800 25200 525 10 2 33 2 2 384 768 8 1 2
        (fun p => p % 256) (fun p => p / 256 % 256) (fun p d => p % 256 + d * 256))
      (cgia_firmware.mk (fun w r _ l => (w, r, l)) (fun w r => (w, r))) 1 (fun _ => 0) () _
      (by decide) rfl).2.1 (by decide) [0] (by decide) (by decide)).2⟩

/-! ## The line counter and the active line of the CGIA -/

theorem cgia_tick_l_count {F : Type} (m : cgia_header) (f : cgia_firmware F) (s : cgia_t F)
    (p : Nat) :
    (cgia_tick m f s p).1.l_count =
      if s.h_count + m.CGIA_FIXEDPOINT_SCALE ≥ s.h_period
      then (if s.l_count + 1 ≥ m.MODE_V_TOTAL_LINES then 0 else s.l_count + 1)
      else s.l_count := by
  rw [(cgia_tick_frame m f s p).2.2.1]
  simp only [_cgia_tick]
  split_ifs with h1 h2
  · rw [(cgia_copy_row_frame _ _).2.2.1, (cgia_rasterize_frame _ _ _).2.2.1]
    simp only [cgia_next_line]
    rw [if_pos h2]
  · rw [(cgia_copy_row_frame _ _).2.2.1, (cgia_rasterize_frame _ _ _).2.2.1]
    simp only [cgia_next_line]
    rw [if_neg h2]
  · rfl

theorem cgia_rasterize_active_line {F : Type} (m : cgia_header) (f : cgia_firmware F)
    (s : cgia_t F) :
    (cgia_rasterize m f s).active_line =
      if s.l_count ≥ m.MODE_V_FRONT_PORCH + m.MODE_V_SYNC_WIDTH + m.MODE_V_BACK_PORCH
      then s.l_count - (m.MODE_V_FRONT_PORCH + m.MODE_V_SYNC_WIDTH + m.MODE_V_BACK_PORCH)
      else s.active_line := by
  simp only [cgia_rasterize]
  split_ifs <;> rfl

theorem cgia_tick_active_line {F : Type} (m : cgia_header) (f : cgia_firmware F) (s : cgia_t F)
    (p : Nat) :
    (cgia_tick m f s p).1.active_line =
      if s.h_count + m.CGIA_FIXEDPOINT_SCALE ≥ s.h_period
      then (if (cgia_tick m f s p).1.l_count ≥
          m.MODE_V_FRONT_PORCH + m.MODE_V_SYNC_WIDTH + m.MODE_V_BACK_PORCH
        then (cgia_tick m f s p).1.l_count -
          (m.MODE_V_FRONT_PORCH + m.MODE_V_SYNC_WIDTH + m.MODE_V_BACK_PORCH)
        else s.active_line)
      else s.active_line := by
  rw [(cgia_tick_frame m f s p).2.2.1, (cgia_tick_frame m f s p).2.2.2.1]
  simp only [_cgia_tick]
  split_ifs with h1 h2 <;>
    first
    | rfl
    | (rw [(cgia_copy_row_frame _ _).2.2.2.1, cgia_rasterize_active_line] at *
       rw [(cgia_copy_row_frame _ _).2.2.1, (cgia_rasterize_frame _ _ _).2.2.1] at *
       first
       | (rw [if_pos (by assumption)])
       | (rw [if_neg (by assumption), (cgia_next_line_frame _ _).2.2.1]))

/-- The ranges of the line counter and of the active line are kept by every tick. -/
theorem cgia_tick_ranges {F : Type} (m : cgia_header) (f : cgia_firmware F) (s : cgia_t F)
    (p : Nat) (h0 : 0 ≤ s.l_count) (h1 : s.l_count < m.MODE_V_TOTAL_LINES)
    (h2 : 0 ≤ s.active_line)
    (h3 : s.active_line < m.MODE_V_TOTAL_LINES -
      (m.MODE_V_FRONT_PORCH + m.MODE_V_SYNC_WIDTH + m.MODE_V_BACK_PORCH)) :
    (0 ≤ (cgia_tick m f s p).1.l_count ∧ (cgia_tick m f s p).1.l_count < m.MODE_V_TOTAL_LINES) ∧
    (0 ≤ (cgia_tick m f s p).1.active_line ∧
      (cgia_tick m f s p).1.active_line < m.MODE_V_TOTAL_LINES -
        (m.MODE_V_FRONT_PORCH + m.MODE_V_SYNC_WIDTH + m.MODE_V_BACK_PORCH)) := by
  have hl : 0 ≤ (cgia_tick m f s p).1.l_count ∧
      (cgia_tick m f s p).1.l_count < m.MODE_V_TOTAL_LINES := by
    rw [cgia_tick_l_count]
    split_ifs <;> omega
  refine ⟨hl, ?_⟩
  rw [cgia_tick_active_line]
  split_ifs <;> omega

theorem cgia_run_ranges {F : Type} (m : cgia_header) (f : cgia_firmware F) (ps : List Nat) :
    ∀ s : cgia_t F, 0 ≤ s.l_count → s.l_count < m.MODE_V_TOTAL_LINES → 0 ≤ s.active_line →
      s.active_line < m.MODE_V_TOTAL_LINES -
        (m.MODE_V_FRONT_PORCH + m.MODE_V_SYNC_WIDTH + m.MODE_V_BACK_PORCH) →
      (0 ≤ (cgia_run m f ps s).l_count ∧ (cgia_run m f ps s).l_count < m.MODE_V_TOTAL_LINES) ∧
      (0 ≤ (cgia_run m f ps s).active_line ∧
        (cgia_run m f ps s).active_line < m.MODE_V_TOTAL_LINES -
          (m.MODE_V_FRONT_PORCH + m.MODE_V_SYNC_WIDTH + m.MODE_V_BACK_PORCH)) := by
  induction ps with
  | nil => intro s h0 h1 h2 h3; exact ⟨⟨h0, h1⟩, h2, h3⟩
  | cons p ps ih =>
    intro s h0 h1 h2 h3
    obtain ⟨⟨a0, a1⟩, a2, a3⟩ := cgia_tick_ranges m f s p h0 h1 h2 h3
    rw [cgia_run]
    exact ih _ a0 a1 a2 a3

/-- C29: for a header whose line total is positive and exceeds front porch + sync width + back
porch, after `cgia_init` and any number of ticks every further `cgia_tick` leaves
`0 <= l_count < MODE_V_TOTAL_LINES`; on a tick in which the horizontal counter rolls over
(`h_count + CGIA_FIXEDPOINT_SCALE >= h_period` before the tick) `l_count` becomes
`(l_count + 1) mod MODE_V_TOTAL_LINES`, otherwise it is unchanged; and
`0 <= active_line < MODE_V_TOTAL_LINES - (front porch + sync width + back porch)`. -/
theorem cgia_line_counter {F : Type} (m : cgia_header) (f : cgia_firmware F) (tick_hz : Int)
    (fb : Int → Nat) (fw : F) (vpu : cgia_t F)
    (hT : 0 < m.MODE_V_TOTAL_LINES)
    (hP : m.MODE_V_FRONT_PORCH + m.MODE_V_SYNC_WIDTH + m.MODE_V_BACK_PORCH < m.MODE_V_TOTAL_LINES)
    (h : cgia_init m tick_hz fb fw = some vpu) (ps : List Nat) (p : Nat) :
    (0 ≤ (cgia_tick m f (cgia_run m f ps vpu) p).1.l_count ∧
      (cgia_tick m f (cgia_run m f ps vpu) p).1.l_count < m.MODE_V_TOTAL_LINES) ∧
    ((cgia_run m f ps vpu).h_count + m.CGIA_FIXEDPOINT_SCALE ≥ (cgia_run m f ps vpu).h_period →
      (cgia_tick m f (cgia_run m f ps vpu) p).1.l_count =
        ((cgia_run m f ps vpu).l_count + 1) % m.MODE_V_TOTAL_LINES) ∧
    (¬ (cgia_run m f ps vpu).h_count + m.CGIA_FIXEDPOINT_SCALE ≥ (cgia_run m f ps vpu).h_period →
      (cgia_tick m f (cgia_run m f ps vpu) p).1.l_count = (cgia_run m f ps vpu).l_count) ∧
    (0 ≤ (cgia_tick m f (cgia_run m f ps vpu) p).1.active_line ∧
      (cgia_tick m f (cgia_run m f ps vpu) p).1.active_line < m.MODE_V_TOTAL_LINES -
        (m.MODE_V_FRONT_PORCH + m.MODE_V_SYNC_WIDTH + m.MODE_V_BACK_PORCH)) := by
  obtain ⟨-, -, hl, ha, -⟩ := cgia_init_fields m tick_hz fb fw vpu h
  obtain ⟨⟨b0, b1⟩, b2, b3⟩ := cgia_run_ranges m f ps vpu (by rw [hl]) (by rw [hl]; exact hT)
    (by rw [ha]) (by rw [ha]; omega)
  obtain ⟨c1, c2⟩ := cgia_tick_ranges m f (cgia_run m f ps vpu) p b0 b1 b2 b3
  refine ⟨c1, ?_, ?_, c2⟩
  · intro hr
    rw [cgia_tick_l_count, if_pos hr]
    split_ifs with h4
    · have e : (cgia_run m f ps vpu).l_count + 1 = m.MODE_V_TOTAL_LINES := by omega
      rw [e, Int.emod_self]
    · rw [Int.emod_eq_of_lt (by omega) (by omega)]
  · intro hr
    rw [cgia_tick_l_count, if_neg hr]

theorem cgia_line_counter_witness :
    ∃ vpu : cgia_t Unit,
      cgia_init (cgia_header.mk 256 800 25200 525 10 2 33 2 2 384 768 8 1 2
        (fun p => p % 256) (fun p => p / 256 % 256) (fun p d => p % 256 + d * 256))
        1000000 (fun _ => 0) () = some vpu ∧
      0 ≤ (cgia_tick (cgia_header.mk 256 800 25200 525 10 2 33 2 2 384 768 8 1 2
        (fun p => p % 256) (fun p => p / 256 % 256) (fun p d => p % 256 + d * 256))
        (cgia_firmware.mk (fun w r _ l => (w, r, l)) (fun w r => (w, r))) vpu 0).1.l_count ∧
      (cgia_tick (cgia_header.mk 256 800 25200 525 10 2 33 2 2 384 768 8 1 2
        (fun p => p % 256) (fun p => p / 256 % 256) (fun p d => p % 256 + d * 256))
        (cgia_firmware.mk (fun w r _ l => (w, r, l)) (fun w r => (w, r))) vpu 0).1.l_count < 525 :=
  ⟨_, rfl,
    (cgia_line_counter (cgia_header.mk 256 800 25200 525 10 2 33 2 2 384 768 8 1 2
        (fun p => p % 256) (fun p => p / 256 % 256) (fun p d => p % 256 + d * 256))
      (cgia_firmware.mk (fun w r _ l => (w, r, l)) (fun w r => (w, r))) 1000000 (fun _ => 0) () _
      (by decide) (by decide) rfl [] 0).1⟩

/-! ## The copy of the line buffer to the frame buffer -/

/-- The inner loop writes `v & 0xFF` to the `n` bytes from `dst` on. -/
theorem cgia_copy_pixel_spec (v : Nat) (n : Nat) :
    ∀ (fb : Int → Nat) (dst : Int),
      (cgia_copy_pixel v n (fb, dst)).2 = dst + n ∧
      (∀ i, dst ≤ i → i < dst + n → (cgia_copy_pixel v n (fb, dst)).1 i = v &&& 0xFF) ∧
      (∀ i, ¬ (dst ≤ i ∧ i < dst + n) → (cgia_copy_pixel v n (fb, dst)).1 i = fb i) := by
  induction n with
  | zero =>
    intro fb dst
    refine ⟨by simp [cgia_copy_pixel], ?_, ?_⟩
    · intro i h1 h2
      simp at h2
      omega
    · intro i _
      rfl
  | succ n ih =>
    intro fb dst
    obtain ⟨e1, e2, e3⟩ := ih (fun i => if i = dst then v &&& 0xFF else fb i) (dst + 1)
    rw [cgia_copy_pixel]
    refine ⟨?_, ?_, ?_⟩
    · rw [e1]; push_cast; ring
    · intro i h1 h2
      by_cases h : dst + 1 ≤ i
      · exact e2 i h (by push_cast at h2; omega)
      · rw [e3 i (by omega)]
        have : i = dst := by omega
        simp [this]
    · intro i hi
      rw [e3 i (by push_cast at hi; omega)]
      have : i ≠ dst := by
        intro h
        apply hi
        push_cast
        omega
      simp [this]

/-- The outer loop writes, for every `x < n` and `r < FB_H_REPEAT`, the low byte of
`linebuffer[src + x]` at `dst + x * FB_H_REPEAT + r`, and nothing else. -/
theorem cgia_copy_line_spec (m : cgia_header) (lb : Nat → Nat) (n : Nat) :
    ∀ (src : Nat) (fb : Int → Nat) (dst : Int),
      (∀ x r : Nat, x < n → r < m.FB_H_REPEAT →
        (cgia_copy_line m lb n (src, fb, dst)).2.1 (dst + x * m.FB_H_REPEAT + r) =
          lb (src + x) &&& 0xFF) ∧
      (∀ i, ¬ (dst ≤ i ∧ i < dst + n * m.FB_H_REPEAT) →
        (cgia_copy_line m lb n (src, fb, dst)).2.1 i = fb i) := by
  induction n with
  | zero =>
    intro src fb dst
    exact ⟨fun x r hx _ => absurd hx (Nat.not_lt_zero x), fun i _ => rfl⟩
  | succ n ih =>
    intro src fb dst
    obtain ⟨p1, p2, p3⟩ := cgia_copy_pixel_spec (lb src) m.FB_H_REPEAT fb dst
    rw [cgia_copy_line]
    have hpair : cgia_copy_pixel (lb src) m.FB_H_REPEAT (fb, dst) =
        ((cgia_copy_pixel (lb src) m.FB_H_REPEAT (fb, dst)).1, dst + m.FB_H_REPEAT) := by
      rw [← p1]
    show _ ∧ _
    simp only []
    rw [hpair]
    obtain ⟨q1, q2⟩ := ih (src + 1) (cgia_copy_pixel (lb src) m.FB_H_REPEAT (fb, dst)).1
      (dst + m.FB_H_REPEAT)
    refine ⟨?_, ?_⟩
    · intro x r hx hr
      cases x with
      | zero =>
        rw [q2 _ (by push_cast; omega)]
        rw [p2 _ (by push_cast; omega) (by push_cast; omega)]
        rfl
      | succ x =>
        have e : dst + ((x + 1 : Nat) : Int) * m.FB_H_REPEAT + r =
            dst + m.FB_H_REPEAT + x * m.FB_H_REPEAT + r := by
          push_cast; ring
        rw [e, q1 x r (by omega) hr]
        congr 2
        omega
    · intro i hi
      have e : ((n + 1 : Nat) : Int) * m.FB_H_REPEAT = m.FB_H_REPEAT + n * m.FB_H_REPEAT := by
        push_cast; ring
      rw [e] at hi
      have hnn : (0 : Int) ≤ n * m.FB_H_REPEAT := by positivity
      rw [q2 i (by omega), p3 i (by omega)]

/-- A tick that rolls over copies the row of the state reached after the line counter and the
rasteriser. -/
theorem cgia_tick_rollover {F : Type} (m : cgia_header) (f : cgia_firmware F) (s : cgia_t F)
    (p : Nat) (hroll : s.h_count + m.CGIA_FIXEDPOINT_SCALE ≥ s.h_period) :
    ∃ s3 : cgia_t F, s3.fb = s.fb ∧
      (cgia_tick m f s p).1.fb = (cgia_copy_row m s3).fb ∧
      (cgia_tick m f s p).1.active_line = s3.active_line ∧
      (cgia_tick m f s p).1.linebuffer = s3.linebuffer := by
  obtain ⟨-, -, -, ha, hl, hf⟩ := cgia_tick_frame m f s p
  rw [ha, hl, hf]
  simp only [_cgia_tick]
  rw [if_pos hroll]
  refine ⟨_, ?_, rfl, rfl, rfl⟩
  rw [(cgia_rasterize_frame _ _ _).2.2.2, (cgia_next_line_frame _ _).2.2.2.2]

theorem adc_bin_shape (c : w65816_t) (v : Nat)
    (hbin : ¬ (c.bcd_enabled ≠ 0 ∧ c.P &&& W65816_DF ≠ 0)) :
    _w65816_adc c v = { c with P := (_w65816_adc c v).P, C := (_w65816_adc c v).C } := by
  unfold _w65816_adc
  simp only [if_neg hbin, set_A]
  split_ifs <;> rfl

theorem sbc_bin_shape (c : w65816_t) (v : Nat)
    (hbin : ¬ (c.bcd_enabled ≠ 0 ∧ c.P &&& W65816_DF ≠ 0)) :
    _w65816_sbc c v = { c with P := (_w65816_sbc c v).P, C := (_w65816_sbc c v).C } := by
  unfold _w65816_sbc
  simp only [if_neg hbin, set_A]
  split_ifs <;> rfl

theorem not_byte (v : Nat) : (NOT32 v &&& 0xFF) % 256 = 255 - v % 256 := by
  have h1 : NOT32 v &&& 0xFF < 256 := by
    rw [and_FF]; omega
  rw [Nat.mod_eq_of_lt h1]
  apply Nat.eq_of_testBit_eq
  intro i
  have e : 255 - v % 256 = 2 ^ 8 - (v % 256 + 1) := by omega
  rw [e, Nat.testBit_two_pow_sub_succ (by omega), Nat.testBit_and, testBit_NOT32, testBit_FF,
    testBit_mod256]
  by_cases h : i < 8
  · have h32 : i < 32 := by omega
    simp [h, h32]
  · simp [h]

theorem NZ_mod (p v : Nat) : _W65816_NZ p v = _W65816_NZ p (v % 256) := by
  have e1 : v % 256 &&& 0xFF = v &&& 0xFF := by
    rw [and_FF, and_FF]; omega
  have e2 : v % 256 &&& W65816_NF = v &&& W65816_NF := by
    show v % 256 &&& (1 <<< 7) = v &&& (1 <<< 7)
    rw [and_bit, and_bit]
    simp only [Nat.reducePow]
    omega
  simp only [_W65816_NZ, e1, e2]

theorem sbc_adc_core (a w b0 b1 p0 : Nat) (ha : a < 256) (hw : w < 256) (hb : b0 + b1 = 1) :
    (if (a + 65536 - w - b0) % 65536 &&& 0xFF00 = 0 then
        ((if (a ^^^ w) &&& (a ^^^ (a + 65536 - w - b0) % 65536) &&& 0x80 ≠ 0 then
            (_W65816_NZ p0 ((a + 65536 - w - b0) % 65536 % 256) ||| W65816_VF) % 256
          else _W65816_NZ p0 ((a + 65536 - w - b0) % 65536 % 256)) ||| W65816_CF) % 256
      else
        (if (a ^^^ w) &&& (a ^^^ (a + 65536 - w - b0) % 65536) &&& 0x80 ≠ 0 then
            (_W65816_NZ p0 ((a + 65536 - w - b0) % 65536 % 256) ||| W65816_VF) % 256
          else _W65816_NZ p0 ((a + 65536 - w - b0) % 65536 % 256))) =
    (if (a + (255 - w) + b1) % 65536 &&& 0xFF00 ≠ 0 then
        ((if NOT32 (a ^^^ (255 - w)) &&& (a ^^^ (a + (255 - w) + b1) % 65536) &&& 0x80 ≠ 0 then
            (_W65816_NZ p0 ((a + (255 - w) + b1) % 65536) ||| W65816_VF) % 256
          else _W65816_NZ p0 ((a + (255 - w) + b1) % 65536)) ||| W65816_CF) % 256
      else
        (if NOT32 (a ^^^ (255 - w)) &&& (a ^^^ (a + (255 - w) + b1) % 65536) &&& 0x80 ≠ 0 then
            (_W65816_NZ p0 ((a + (255 - w) + b1) % 65536) ||| W65816_VF) % 256
          else _W65816_NZ p0 ((a + (255 - w) + b1) % 65536))) := by
  have hNZ : _W65816_NZ p0 ((a + 65536 - w - b0) % 65536 % 256) =
      _W65816_NZ p0 ((a + (255 - w) + b1) % 65536) := by
    rw [NZ_mod p0 ((a + (255 - w) + b1) % 65536)]
    congr 1
    omega
  have hC : (a + 65536 - w - b0) % 65536 &&& 0xFF00 = 0 ↔
      (a + (255 - w) + b1) % 65536 &&& 0xFF00 ≠ 0 := by
    rw [and_FF00, and_FF00]
    omega
  have hV : (a ^^^ w) &&& (a ^^^ (a + 65536 - w - b0) % 65536) &&& 0x80 ≠ 0 ↔
      NOT32 (a ^^^ (255 - w)) &&& (a ^^^ (a + (255 - w) + b1) % 65536) &&& 0x80 ≠ 0 := by
    rw [flag_80, flag_80]
    simp only [Nat.testBit_or, Nat.testBit_and, Nat.testBit_xor, testBit_mod256, testBit_NOT32]
    simp only [Nat.testBit_to_div_mod, Nat.reducePow, Nat.reduceDiv, Nat.reduceMod,
      Nat.reduceLT, decide_True, Bool.true_and]
    have h1 : a / 128 % 2 = 0 ∨ a / 128 % 2 = 1 := by omega
    have h2 : w / 128 % 2 = 0 ∨ w / 128 % 2 = 1 := by omega
    have h3 : (255 - w) / 128 % 2 = 1 - w / 128 % 2 := by omega
    have h4 : (a + (255 - w) + b1) % 65536 / 128 % 2 = (a + 65536 - w - b0) % 65536 / 128 % 2 := by
      omega
    rw [h3, h4]
    generalize (a + 65536 - w - b0) % 65536 / 128 % 2 = t
    rcases h1 with h1 | h1 <;> rcases h2 with h2 | h2 <;> rw [h1, h2] <;> simp
  simp only [hNZ, hC, hV]

theorem sbc_adc_P (c : w65816_t) (v : Nat)
    (hbin : ¬ (c.bcd_enabled ≠ 0 ∧ c.P &&& W65816_DF ≠ 0)) :
    (_w65816_sbc c v).P = (_w65816_adc c (NOT32 v &&& 0xFF)).P := by
  have ha := A_lt c
  have hv : v % 256 < 256 := Nat.mod_lt _ (by decide)
  rw [sbc_bin_P c v hbin, adc_bin_P c _ hbin, not_byte]
  by_cases hc : c.P &&& W65816_CF ≠ 0
  · simp only [if_pos hc]
    exact sbc_adc_core _ _ 0 1 _ ha hv rfl
  · simp only [if_neg hc]
    exact sbc_adc_core _ _ 1 0 _ ha hv rfl

theorem sbc_adc_C (c : w65816_t) (v : Nat)
    (hbin : ¬ (c.bcd_enabled ≠ 0 ∧ c.P &&& W65816_DF ≠ 0)) :
    (_w65816_sbc c v).C = (_w65816_adc c (NOT32 v &&& 0xFF)).C := by
  have ha := A_lt c
  have hv : v % 256 < 256 := Nat.mod_lt _ (by decide)
  rw [sbc_bin_C c v hbin, adc_bin_C c _ hbin, not_byte]
  congr 1
  rw [and_FF, and_FF, and_FF, and_FF]
  split_ifs <;> omega

/-- C38: in binary mode (BCD disabled or D clear), for every state, hence every A and P, and
every operand `v`, `_w65816_sbc` with operand `v` returns exactly the state that
`_w65816_adc` returns with operand `~v & 0xFF`: the same A, the same P and every other register
unchanged.  A is (A + (255 - v) + C) mod 256 and the carry flag afterwards is set iff
A + (255 - v) + C ≥ 256, i.e. iff A ≥ v + (1 - C): no borrow. -/
theorem sbc_is_adc_of_complement (c : w65816_t) (v : Nat)
    (hbin : c.bcd_enabled = 0 ∨ c.P &&& W65816_DF = 0) :
    _w65816_sbc c v = _w65816_adc c (NOT32 v &&& 0xFF) ∧
    _A (_w65816_sbc c v) = _A (_w65816_adc c (NOT32 v &&& 0xFF)) ∧
    (_w65816_sbc c v).P = (_w65816_adc c (NOT32 v &&& 0xFF)).P ∧
    _A (_w65816_sbc c v) =
      (_A c + (255 - v % 256) + (if c.P &&& W65816_CF ≠ 0 then 1 else 0)) % 256 ∧
    ((_w65816_sbc c v).P &&& W65816_CF ≠ 0 ↔
      v % 256 + (if c.P &&& W65816_CF ≠ 0 then 0 else 1) ≤ _A c) := by
  have hb : ¬ (c.bcd_enabled ≠ 0 ∧ c.P &&& W65816_DF ≠ 0) := by tauto
  have hP := sbc_adc_P c v hb
  have hC := sbc_adc_C c v hb
  have hE : _w65816_sbc c v = _w65816_adc c (NOT32 v &&& 0xFF) := by
    rw [sbc_bin_shape c v hb, adc_bin_shape c _ hb, hP, hC]
  have h1 : NOT32 v &&& 0xFF < 256 := by
    rw [and_FF]; omega
  have h2 : NOT32 v &&& 0xFF = 255 - v % 256 := by
    rw [← not_byte, Nat.mod_eq_of_lt h1]
  have ha := A_lt c
  obtain ⟨hA, hCF, -⟩ := adc_binary_mode c (NOT32 v &&& 0xFF) h1 hbin
  refine ⟨hE, by rw [hE], hP, ?_, ?_⟩
  · rw [hE, hA, h2]
  · rw [hP, hCF, h2]
    split_ifs <;> omega

theorem sbc_is_adc_of_complement_witness :
    (({ (w65816_init false).1 with C := 0x1240, P := 0x21 } : w65816_t).bcd_enabled = 0 ∨
      ({ (w65816_init false).1 with C := 0x1240, P := 0x21 } : w65816_t).P &&& W65816_DF = 0) ∧
    _w65816_sbc { (w65816_init false).1 with C := 0x1240, P := 0x21 } 0x41 =
      _w65816_adc { (w65816_init false).1 with C := 0x1240, P := 0x21 } 0xBE ∧
    _A (_w65816_sbc { (w65816_init false).1 with C := 0x1240, P := 0x21 } 0x41) = 0xFF ∧
    (_w65816_sbc { (w65816_init false).1 with C := 0x1240, P := 0x21 } 0x41).P &&& W65816_CF = 0 :=
  ⟨Or.inr (by decide),
    (sbc_is_adc_of_complement { (w65816_init false).1 with C := 0x1240, P := 0x21 } 0x41
      (Or.inr (by decide))).1.trans (by decide),
    by decide, by decide⟩

/-! ## `_w65816_adc` in decimal mode on valid BCD operands -/

theorem and_0F (x : Nat) : x &&& 0x0F = x % 16 := by
  simpa using and_mask x 4 0

theorem shl4_or (h l : Nat) (hl : l < 16) : (h <<< 4) ||| l = h * 16 + l := by
  rw [Nat.shiftLeft_eq]
  exact or_eq_add 4 _ _ (by simp) hl

theorem adc_bcd_A (c : w65816_t) (v : Nat) (hbcd : c.bcd_enabled ≠ 0 ∧ c.P &&& W65816_DF ≠ 0) :
    _A (_w65816_adc c v) =
      (let val := v % 256
       let cin := if c.P &&& W65816_CF ≠ 0 then 1 else 0
       let al := (_A c % 16 + val % 16 + cin) % 256
       let al := if al > 9 then (al + 6) % 256 else al
       let ah := (_A c / 16 + val / 16 + (if al > 0x0F then 1 else 0)) % 256
       let ah := if ah > 9 then (ah + 6) % 256 else ah
       (ah * 16 + al % 16) % 256) := by
  rw [_A, adc_bcd_C c v hbcd]
  simp only [lo_of_or]
  simp only [and_0F, and_FF, Nat.mod_mod, Nat.shiftRight_eq_div_pow, Nat.reducePow]
  rw [shl4_or _ _ (Nat.mod_lt _ (by decide))]

theorem bcd_sum_core (p q r t cin : Nat) (hp : p ≤ 9) (hq : q ≤ 9) (hr : r ≤ 9) (ht : t ≤ 9)
    (hc : cin ≤ 1) :
    (let al := (p + r + cin) % 256
     let al := if al > 9 then (al + 6) % 256 else al
     let ah := (q + t + (if al > 0x0F then 1 else 0)) % 256
     let ah := if ah > 9 then (ah + 6) % 256 else ah
     (ah * 16 + al % 16) % 256) =
      bcd_encode ((q * 10 + p + (t * 10 + r) + cin) % 100) := by
  have m1 : (p + r + cin) % 256 = p + r + cin := by omega
  have m2 : (p + r + cin + 6) % 256 = p + r + cin + 6 := by omega
  have m3 : (q + t + 1) % 256 = q + t + 1 := by omega
  have m4 : (q + t + 0) % 256 = q + t := by omega
  have m5 : (q + t + 1 + 6) % 256 = q + t + 7 := by omega
  have m6 : (q + t + 6) % 256 = q + t + 6 := by omega
  simp only [bcd_encode, m1]
  have fin : ∀ X Y : Nat, Y ≤ 9 → (X * 10 + Y) / 10 * 16 + (X * 10 + Y) % 10 = X * 16 + Y := by
    intro X Y hY
    omega
  rcases Nat.lt_or_ge 9 (p + r + cin) with h1 | h1
  · have e3 : p + r + cin + 6 > 15 := by omega
    have e7 : (p + r + cin + 6) % 16 = p + r + cin - 10 := by omega
    simp only [if_pos h1, m2, if_pos e3, m3, e7]
    rcases Nat.lt_or_ge 9 (q + t + 1) with h2 | h2
    · have e6 : (q * 10 + p + (t * 10 + r) + cin) % 100 =
          (q + t + 1 - 10) * 10 + (p + r + cin - 10) := by omega
      have e8 : ((q + t + 7) * 16 + (p + r + cin - 10)) % 256 =
          (q + t + 1 - 10) * 16 + (p + r + cin - 10) := by omega
      simp only [if_pos h2, m5, e6, e8]
      exact (fin _ _ (by omega)).symm
    · have e4 : ¬ q + t + 1 > 9 := by omega
      have e6 : (q * 10 + p + (t * 10 + r) + cin) % 100 =
          (q + t + 1) * 10 + (p + r + cin - 10) := by omega
      have e8 : ((q + t + 1) * 16 + (p + r + cin - 10)) % 256 =
          (q + t + 1) * 16 + (p + r + cin - 10) := by omega
      simp only [if_neg e4, e6, e8]
      exact (fin _ _ (by omega)).symm
  · have e1 : ¬ p + r + cin > 9 := by omega
    have e3 : ¬ p + r + cin > 15 := by omega
    have e7 : (p + r + cin) % 16 = p + r + cin := by omega
    simp only [if_neg e1, if_neg e3, m4, e7]
    rcases Nat.lt_or_ge 9 (q + t) with h2 | h2
    · have e6 : (q * 10 + p + (t * 10 + r) + cin) % 100 =
          (q + t - 10) * 10 + (p + r + cin) := by omega
      have e8 : ((q + t + 6) * 16 + (p + r + cin)) % 256 =
          (q + t - 10) * 16 + (p + r + cin) := by omega
      simp only [if_pos h2, m6, e6, e8]
      exact (fin _ _ (by omega)).symm
    · have e4 : ¬ q + t > 9 := by omega
      have e6 : (q * 10 + p + (t * 10 + r) + cin) % 100 =
          (q + t) * 10 + (p + r + cin) := by omega
      have e8 : ((q + t) * 16 + (p + r + cin)) % 256 =
          (q + t) * 16 + (p + r + cin) := by omega
      simp only [if_neg e4, e6, e8]
      exact (fin _ _ (by omega)).symm

theorem bcd_sum (a w cin : Nat) (ha : bcd_valid a) (hw : bcd_valid w) (hc : cin ≤ 1) :
    (let al := (a % 16 + w % 16 + cin) % 256
     let al := if al > 9 then (al + 6) % 256 else al
     let ah := (a / 16 + w / 16 + (if al > 0x0F then 1 else 0)) % 256
     let ah := if ah > 9 then (ah + 6) % 256 else ah
     (ah * 16 + al % 16) % 256) =
      bcd_encode ((bcd_value a + bcd_value w + cin) % 100) := by
  obtain ⟨a1, a2, a3⟩ := ha
  obtain ⟨w1, w2, w3⟩ := hw
  exact bcd_sum_core _ _ _ _ _ a3 a2 w3 w2 hc

theorem bcd_carry_core (p q r t cin : Nat) (hp : p ≤ 9) (hq : q ≤ 9) (hr : r ≤ 9) (ht : t ≤ 9)
    (hc : cin ≤ 1) :
    (let al := (p + r + cin) % 256
     let al := if al > 9 then (al + 6) % 256 else al
     let ah := (q + t + (if al > 0x0F then 1 else 0)) % 256
     let ah := if ah > 9 then (ah + 6) % 256 else ah
     ah > 15) ↔ 100 ≤ q * 10 + p + (t * 10 + r) + cin := by
  have m1 : (p + r + cin) % 256 = p + r + cin := by omega
  have m2 : (p + r + cin + 6) % 256 = p + r + cin + 6 := by omega
  have m3 : (q + t + 1) % 256 = q + t + 1 := by omega
  have m4 : (q + t + 0) % 256 = q + t := by omega
  have m5 : (q + t + 1 + 6) % 256 = q + t + 7 := by omega
  have m6 : (q + t + 6) % 256 = q + t + 6 := by omega
  simp only [m1]
  rcases Nat.lt_or_ge 9 (p + r + cin) with h1 | h1
  · have e3 : p + r + cin + 6 > 15 := by omega
    simp only [if_pos h1, m2, if_pos e3, m3]
    rcases Nat.lt_or_ge 9 (q + t + 1) with h2 | h2
    · simp only [if_pos h2, m5]
      omega
    · have e4 : ¬ q + t + 1 > 9 := by omega
      simp only [if_neg e4]
      omega
  · have e1 : ¬ p + r + cin > 9 := by omega
    have e3 : ¬ p + r + cin > 15 := by omega
    simp only [if_neg e1, if_neg e3, m4]
    rcases Nat.lt_or_ge 9 (q + t) with h2 | h2
    · simp only [if_pos h2, m6]
      omega
    · have e4 : ¬ q + t > 9 := by omega
      simp only [if_neg e4]
      omega

theorem bcd_P_carry (p0 : Nat) (z n v k : Prop) [Decidable z] [Decidable n] [Decidable v]
    [Decidable k] :
    ((if k then
        ((if v then
            ((if z then ((p0 &&& NOT32 (W65816_NF ||| W65816_VF ||| W65816_ZF ||| W65816_CF)) % 256 |||
                  W65816_ZF) % 256
              else if n then
                ((p0 &&& NOT32 (W65816_NF ||| W65816_VF ||| W65816_ZF ||| W65816_CF)) % 256 |||
                  W65816_NF) % 256
              else (p0 &&& NOT32 (W65816_NF ||| W65816_VF ||| W65816_ZF ||| W65816_CF)) % 256) |||
              W65816_VF) % 256
          else
            (if z then ((p0 &&& NOT32 (W65816_NF ||| W65816_VF ||| W65816_ZF ||| W65816_CF)) % 256 |||
                  W65816_ZF) % 256
              else if n then
                ((p0 &&& NOT32 (W65816_NF ||| W65816_VF ||| W65816_ZF ||| W65816_CF)) % 256 |||
                  W65816_NF) % 256
              else (p0 &&& NOT32 (W65816_NF ||| W65816_VF ||| W65816_ZF ||| W65816_CF)) % 256)) |||
          W65816_CF) % 256
      else
        (if v then
            ((if z then ((p0 &&& NOT32 (W65816_NF ||| W65816_VF ||| W65816_ZF ||| W65816_CF)) % 256 |||
                  W65816_ZF) % 256
              else if n then
                ((p0 &&& NOT32 (W65816_NF ||| W65816_VF ||| W65816_ZF ||| W65816_CF)) % 256 |||
                  W65816_NF) % 256
              else (p0 &&& NOT32 (W65816_NF ||| W65816_VF ||| W65816_ZF ||| W65816_CF)) % 256) |||
              W65816_VF) % 256
          else
            (if z then ((p0 &&& NOT32 (W65816_NF ||| W65816_VF ||| W65816_ZF ||| W65816_CF)) % 256 |||
                  W65816_ZF) % 256
              else if n then
                ((p0 &&& NOT32 (W65816_NF ||| W65816_VF ||| W65816_ZF ||| W65816_CF)) % 256 |||
                  W65816_NF) % 256
              else (p0 &&& NOT32 (W65816_NF ||| W65816_VF ||| W65816_ZF ||| W65816_CF)) % 256))) &&&
      W65816_CF ≠ 0) ↔ k := by
  rw [show W65816_CF = 1 <<< 0 from rfl, flag_ne]
  split_ifs <;>
    simp only [Nat.testBit_or, Nat.testBit_and, testBit_mod256, testBit_NOT32, W65816_NF,
      W65816_VF, W65816_ZF, W65816_CF, Nat.reduceShiftLeft, Nat.reduceOr] <;>
    simp only [Nat.testBit_to_div_mod, Nat.reducePow, Nat.reduceDiv, Nat.reduceMod,
      Nat.reduceLT, Nat.reduceEqDiff, decide_True, decide_False, Bool.true_and, Bool.and_true,
      Bool.false_and, Bool.and_false, Bool.or_false, Bool.false_or, Bool.or_true, Bool.true_or,
      Bool.not_true, Bool.not_false] <;>
    simp [*]

/-- C37: in decimal mode (`bcd_enabled` and the D flag set), for valid BCD bytes A and `v` and
carry-in c, `_w65816_adc` leaves in A the BCD encoding of (dec(A) + dec(v) + c) mod 100, which
is again a valid BCD byte, and sets the carry flag iff dec(A) + dec(v) + c ≥ 100. -/
theorem adc_decimal_mode (c : w65816_t) (v : Nat) (hb : c.bcd_enabled ≠ 0)
    (hd : c.P &&& W65816_DF ≠ 0) (hA : bcd_valid (_A c)) (hv : bcd_valid v) :
    _A (_w65816_adc c v) =
      bcd_encode ((bcd_value (_A c) + bcd_value v +
        (if c.P &&& W65816_CF ≠ 0 then 1 else 0)) % 100) ∧
    bcd_valid (_A (_w65816_adc c v)) ∧
    ((_w65816_adc c v).P &&& W65816_CF ≠ 0 ↔
      100 ≤ bcd_value (_A c) + bcd_value v + (if c.P &&& W65816_CF ≠ 0 then 1 else 0)) := by
  have hc : (if c.P &&& W65816_CF ≠ 0 then 1 else 0) ≤ 1 := by split_ifs <;> omega
  have hvm : v % 256 = v := Nat.mod_eq_of_lt hv.1
  have h1 : _A (_w65816_adc c v) =
      bcd_encode ((bcd_value (_A c) + bcd_value v +
        (if c.P &&& W65816_CF ≠ 0 then 1 else 0)) % 100) := by
    rw [adc_bcd_A c v ⟨hb, hd⟩, hvm]
    exact bcd_sum _ _ _ hA hv hc
  refine ⟨h1, ?_, ?_⟩
  · rw [h1]
    generalize (bcd_value (_A c) + bcd_value v + (if c.P &&& W65816_CF ≠ 0 then 1 else 0)) = n
    simp only [bcd_valid, bcd_encode]
    omega
  · rw [adc_bcd_P c v ⟨hb, hd⟩, hvm]
    simp only [and_0F, Nat.shiftRight_eq_div_pow, Nat.reducePow]
    rw [bcd_P_carry]
    obtain ⟨a1, a2, a3⟩ := hA
    obtain ⟨w1, w2, w3⟩ := hv
    exact bcd_carry_core _ _ _ _ _ a3 a2 w3 w2 hc

theorem adc_decimal_mode_witness :
    ({ (w65816_init false).1 with C := 0x58, P := 0x09 } : w65816_t).bcd_enabled ≠ 0 ∧
    ({ (w65816_init false).1 with C := 0x58, P := 0x09 } : w65816_t).P &&& W65816_DF ≠ 0 ∧
    bcd_valid (_A { (w65816_init false).1 with C := 0x58, P := 0x09 }) ∧ bcd_valid 0x46 ∧
    _A (_w65816_adc { (w65816_init false).1 with C := 0x58, P := 0x09 } 0x46) = 0x05 ∧
    (_w65816_adc { (w65816_init false).1 with C := 0x58, P := 0x09 } 0x46).P &&& W65816_CF ≠ 0 :=
  ⟨by decide, by decide, by decide, by decide,
    (adc_decimal_mode { (w65816_init false).1 with C := 0x58, P := 0x09 } 0x46 (by decide)
      (by decide) (by decide) (by decide)).1.trans (by decide),
    by decide⟩

/-! ## The reset sequence only reads -/

/-- C40: in the seven iterations of the host loop that follow `w65816_init`, for every memory
content, every pin word returned by the tick has RW high, so every access of the host is a
read: the memory is the initial memory after each of the seven iterations. -/
theorem reset_only_reads (bcd_disabled : Bool) (mem : Mem) :
    (∀ k, k < 7 → ∃ r, host_tick k (host_init bcd_disabled mem) = some r ∧
        r.2 &&& W65816_RW ≠ 0) ∧
    (∀ k, k ≤ 7 → ∃ s, host_run k (host_init bcd_disabled mem) = some s ∧ s.mem = mem) := by
  obtain ⟨i1, i2, i3, i4, i5⟩ := init_fields bcd_disabled
  have r0 : host_run 0 (host_init bcd_disabled mem) = some _ := congrArg some (init_sys bcd_disabled mem)
  obtain ⟨c1, t0, f1, g1, -⟩ := reset_tick0 (w65816_init bcd_disabled).1 0 0 0 true i3 i4 i5
  have r1 := host_run_step _ _ _ _ r0 (host_step_qread _ _ mem _ _ _ _ _ _ t0)
  obtain ⟨c2, t1, f2, g2⟩ := reset_tick1 c1 _ (mem _ % 256) 0 true false false rfl f1 g1
  have r2 := host_run_step _ _ _ _ r1 (host_step_qread _ _ mem _ _ _ _ _ _ t1)
  obtain ⟨c3, t2, f3, g3⟩ := reset_tick2 c2 _ (mem _ % 256) 0 true false true rfl f2 g2
  have r3 := host_run_step _ _ _ _ r2 (host_step_qread _ _ mem _ _ _ _ _ _ t2)
  obtain ⟨c4, t3, f4, g4⟩ := reset_tick3 c3 _ (mem _ % 256) 0 true false true rfl f3 g3
  have r4 := host_run_step _ _ _ _ r3 (host_step_qread _ _ mem _ _ _ _ _ _ t3)
  obtain ⟨c5, t4, f5, g5, -⟩ := brk_tick4 c4 _ (mem _ % 256) 0 true false true rfl f4
  have r5 := host_run_step _ _ _ _ r4 (host_step_qread _ _ mem _ _ _ _ _ _ t4)
  obtain ⟨c6, t5, f6, g6, -⟩ := brk_tick5 c5 _ (mem _ % 256) 0 true false true rfl f5
  have r6 := host_run_step _ _ _ _ r5 (host_step_qread _ _ mem _ _ _ _ _ _ t5)
  obtain ⟨c7, t6, f7, g7, -⟩ :=
    brk_tick6 c6 c5.AD (mem (c5.AD % 65536 + 0 % 256 * 65536) % 256) 0 true false true rfl f6
  have r7 := host_run_step _ _ _ _ r6 (host_step_qread _ _ mem _ _ _ _ _ _ t6)
  refine ⟨?_, ?_⟩
  · intro k hk
    interval_cases k
    · exact ⟨_, (host_tick_of _ _ _ r0).trans t0, qpins_read _ _ _ _ _⟩
    · exact ⟨_, (host_tick_of _ _ _ r1).trans t1, qpins_read _ _ _ _ _⟩
    · exact ⟨_, (host_tick_of _ _ _ r2).trans t2, qpins_read _ _ _ _ _⟩
    · exact ⟨_, (host_tick_of _ _ _ r3).trans t3, qpins_read _ _ _ _ _⟩
    · exact ⟨_, (host_tick_of _ _ _ r4).trans t4, qpins_read _ _ _ _ _⟩
    · exact ⟨_, (host_tick_of _ _ _ r5).trans t5, qpins_read _ _ _ _ _⟩
    · exact ⟨_, (host_tick_of _ _ _ r6).trans t6, qpins_read _ _ _ _ _⟩
  · intro k hk
    interval_cases k
    · exact ⟨_, r0, rfl⟩
    · exact ⟨_, r1, rfl⟩
    · exact ⟨_, r2, rfl⟩
    · exact ⟨_, r3, rfl⟩
    · exact ⟨_, r4, rfl⟩
    · exact ⟨_, r5, rfl⟩
    · exact ⟨_, r6, rfl⟩
    · exact ⟨_, r7, rfl⟩

/-! ## Sub-cycles of LDX #, LDY #, LDA a,x, JSR a and RTS -/

set_option linter.unusedVariables false

theorem tick_finish_Xlow (c : w65816_t) (p : Nat) :
    (tick_finish c p).1.X &&& 0xFF = c.X &&& 0xFF := by
  rw [tick_finish_X]
  split_ifs <;> first | rfl | rw [Nat.and_assoc, Nat.and_self]

theorem i8_set_X (c : w65816_t) (v : Nat) : _i8 (set_X c v) = _i8 c := rfl

theorem i8_set_Y (c : w65816_t) (v : Nat) : _i8 (set_Y c v) = _i8 c := rfl

theorem set_X_PC (c : w65816_t) (v : Nat) : (set_X c v).PC = c.PC := rfl

theorem set_Y_PC (c : w65816_t) (v : Nat) : (set_Y c v).PC = c.PC := rfl

theorem set_XH_PC (c : w65816_t) (v : Nat) : (set_XH c v).PC = c.PC := rfl

theorem set_YH_PC (c : w65816_t) (v : Nat) : (set_YH c v).PC = c.PC := rfl

/-! ### LDX # (0xA2) -/

theorem decode_A2_0 (c : w65816_t) (p : Nat) :
    w65816_decode 0x510 c p = op_A2 0 c p := by
  simp only [w65816_decode, decode_A, Nat.reduceDiv, Nat.reduceMod]

theorem opA2_0_word (c : w65816_t) (f : PinF) :
    op_A2 0 c f.word = some ({ c with PC := (c.PC + 1) % 65536 },
      ({ f with a := c.PC, vpa := true } : PinF).word) := by
  simp only [op_A2, VPA_word, SA_word]

/-- Sync tick of LDX #: the operand byte after the opcode is addressed with VPA. -/
theorem ldx_t0 (c : w65816_t) (a bank : Nat) (rw : Bool) (hb : c.brk_flags = 0)
    (hi : c.irq_pip = 0) (hn : c.nmi_pip = 0) :
    ∃ c1, w65816_tick c (qpins a 0xA2 rw true true bank).word =
        some (c1, (qpins ((c.PC + 1) % 65536) 0xA2 true true false bank).word) ∧
      c1.IR = 0x511 ∧ c1.PC = ((c.PC + 1) % 65536 + 1) % 65536 ∧ c1.C = c.C ∧
      c1.P = (if c.emulation ≠ 0 then (c.P ||| 0x20) % 256 else c.P) ∧
      c1.S = (if c.emulation ≠ 0 then 0x0100 ||| (c.S &&& 0xFF) else c.S) ∧
      c1.emulation = c.emulation ∧ c1.brk_flags = 0 ∧
      c1.X = (if (c.emulation ||| ((if c.emulation ≠ 0 then (c.P ||| 0x20) % 256 else c.P) &&& W65816_XF)) ≠ 0 then c.X &&& 0xFF else c.X) ∧
      c1.Y = (if (c.emulation ||| ((if c.emulation ≠ 0 then (c.P ||| 0x20) % 256 else c.P) &&& W65816_XF)) ≠ 0 then c.Y &&& 0xFF else c.Y) := by
  rw [tick_sync_op c a 0xA2 bank rw hb hi hn]
  have e : ((0xA2 % 256) <<< 3) % 65536 = 0x510 := by decide
  rw [e, decode_A2_0, opA2_0_word, Option.map_some', tick_finish_pair]
  exact ⟨_, rfl, tick_finish_IR _ _, tick_finish_PC _ _, tick_finish_C _ _, tick_finish_P _ _, tick_finish_S _ _, tick_finish_emulation _ _, tick_finish_brk _ _, tick_finish_X _ _, tick_finish_Y _ _⟩

theorem decode_A2_1 (c : w65816_t) (p : Nat) :
    w65816_decode 0x511 c p = op_A2 1 c p := by
  simp only [w65816_decode, decode_A, Nat.reduceDiv, Nat.reduceMod]

theorem opA2_1_word_i16 (c : w65816_t) (f : PinF) (hx : _i8 c = false) :
    op_A2 1 c f.word = some ({ set_X c (f.d % 256) with PC := (c.PC + 1) % 65536 },
      ({ f with a := c.PC, vpa := true } : PinF).word) := by
  simp only [op_A2, GD_word, i8_set_X, hx, Bool.false_eq_true, if_false, VPA_word, SA_word, set_X_PC]

/-- Sub-cycle 1 of LDX # with 16-bit index registers: the low byte of X is loaded and the second
operand byte is addressed with VPA. -/
theorem ldx_t1_i16 (c : w65816_t) (a d bank : Nat) (rw vpa vda : Bool)
    (hs : (vpa && vda) = false) (hIR : c.IR = 0x511) (hx : _i8 c = false) :
    ∃ c1, w65816_tick c (qpins a d rw vpa vda bank).word =
        some (c1, (qpins c.PC d true true false bank).word) ∧
      c1.IR = 0x512 ∧ c1.PC = (c.PC + 1) % 65536 ∧ c1.C = c.C ∧
      c1.P = (if c.emulation ≠ 0 then (c.P ||| 0x20) % 256 else c.P) ∧
      c1.S = (if c.emulation ≠ 0 then 0x0100 ||| (c.S &&& 0xFF) else c.S) ∧
      c1.emulation = c.emulation ∧ c1.brk_flags = c.brk_flags ∧
      c1.X = (if (c.emulation ||| ((if c.emulation ≠ 0 then (c.P ||| 0x20) % 256 else c.P) &&& W65816_XF)) ≠ 0 then ((c.X &&& 0xFF00) ||| (d % 256 &&& 0xFF)) &&& 0xFF else ((c.X &&& 0xFF00) ||| (d % 256 &&& 0xFF))) ∧
      c1.Y = (if (c.emulation ||| ((if c.emulation ≠ 0 then (c.P ||| 0x20) % 256 else c.P) &&& W65816_XF)) ≠ 0 then c.Y &&& 0xFF else c.Y) := by
  rw [tick_step_op c a d bank rw vpa vda hs, hIR, decode_A2_1,
    opA2_1_word_i16, Option.map_some', tick_finish_pair]
  · exact ⟨_, rfl, tick_finish_IR _ _, tick_finish_PC _ _, tick_finish_C _ _, tick_finish_P _ _, tick_finish_S _ _, tick_finish_emulation _ _, tick_finish_brk _ _, tick_finish_X _ _, tick_finish_Y _ _⟩
  · exact hx

theorem decode_A2_2 (c : w65816_t) (p : Nat) :
    w65816_decode 0x512 c p = op_A2 2 c p := by
  simp only [w65816_decode, decode_A, Nat.reduceDiv, Nat.reduceMod]

theorem opA2_2_word (c : w65816_t) (f : PinF) :
    op_A2 2 c f.word = some (_NZ16 (set_XH c (f.d % 256)) (_X (set_XH c (f.d % 256))),
      ({ f with a := c.PC, vpa := true, vda := true } : PinF).word) := by
  simp only [op_A2, GD_word, FETCH_word, NZ16_PC, set_XH_PC]

/-- Sub-cycle 2 of LDX # (16-bit index registers): the high byte of X is loaded, `_NZ16` is applied
to `_X(c)`, the low byte of X, and the next opcode fetch is issued. -/
theorem ldx_t2 (c : w65816_t) (a d bank : Nat) (rw vpa vda : Bool)
    (hs : (vpa && vda) = false) (hIR : c.IR = 0x512) :
    ∃ c1, w65816_tick c (qpins a d rw vpa vda bank).word =
        some (c1, (qpins c.PC d true true true bank).word) ∧
      c1.IR = 0x513 ∧ c1.PC = c.PC ∧ c1.C = c.C ∧
      c1.P = (if c.emulation ≠ 0 then ((_NZ16 (set_XH c (d % 256)) (_X (set_XH c (d % 256)))).P ||| 0x20) % 256 else (_NZ16 (set_XH c (d % 256)) (_X (set_XH c (d % 256)))).P) ∧
      c1.S = (if c.emulation ≠ 0 then 0x0100 ||| (c.S &&& 0xFF) else c.S) ∧
      c1.emulation = c.emulation ∧ c1.brk_flags = c.brk_flags ∧
      c1.X = (if (c.emulation ||| ((if c.emulation ≠ 0 then ((_NZ16 (set_XH c (d % 256)) (_X (set_XH c (d % 256)))).P ||| 0x20) % 256 else (_NZ16 (set_XH c (d % 256)) (_X (set_XH c (d % 256)))).P) &&& W65816_XF)) ≠ 0 then ((c.X &&& 0xFF) ||| ((d % 256 &&& 0xFF) <<< 8)) &&& 0xFF else ((c.X &&& 0xFF) ||| ((d % 256 &&& 0xFF) <<< 8))) ∧
      c1.Y = (if (c.emulation ||| ((if c.emulation ≠ 0 then ((_NZ16 (set_XH c (d % 256)) (_X (set_XH c (d % 256)))).P ||| 0x20) % 256 else (_NZ16 (set_XH c (d % 256)) (_X (set_XH c (d % 256)))).P) &&& W65816_XF)) ≠ 0 then c.Y &&& 0xFF else c.Y) := by
  rw [tick_step_op c a d bank rw vpa vda hs, hIR, decode_A2_2,
    opA2_2_word, Option.map_some', tick_finish_pair]
  exact ⟨_, rfl, tick_finish_IR _ _, tick_finish_PC _ _, tick_finish_C _ _, tick_finish_P _ _, tick_finish_S _ _, tick_finish_emulation _ _, tick_finish_brk _ _, tick_finish_X _ _, tick_finish_Y _ _⟩

/-! ### LDY # (0xA0) -/

theorem decode_A0_0 (c : w65816_t) (p : Nat) :
    w65816_decode 0x500 c p = op_A0 0 c p := by
  simp only [w65816_decode, decode_A, Nat.reduceDiv, Nat.reduceMod]

theorem opA0_0_word (c : w65816_t) (f : PinF) :
    op_A0 0 c f.word = some ({ c with PC := (c.PC + 1) % 65536 },
      ({ f with a := c.PC, vpa := true } : PinF).word) := by
  simp only [op_A0, VPA_word, SA_word]

/-- Sync tick of LDY #: the operand byte after the opcode is addressed with VPA. -/
theorem ldy_t0 (c : w65816_t) (a bank : Nat) (rw : Bool) (hb : c.brk_flags = 0)
    (hi : c.irq_pip = 0) (hn : c.nmi_pip = 0) :
    ∃ c1, w65816_tick c (qpins a 0xA0 rw true true bank).word =
        some (c1, (qpins ((c.PC + 1) % 65536) 0xA0 true true false bank).word) ∧
      c1.IR = 0x501 ∧ c1.PC = ((c.PC + 1) % 65536 + 1) % 65536 ∧ c1.C = c.C ∧
      c1.P = (if c.emulation ≠ 0 then (c.P ||| 0x20) % 256 else c.P) ∧
      c1.S = (if c.emulation ≠ 0 then 0x0100 ||| (c.S &&& 0xFF) else c.S) ∧
      c1.emulation = c.emulation ∧ c1.brk_flags = 0 ∧
      c1.X = (if (c.emulation ||| ((if c.emulation ≠ 0 then (c.P ||| 0x20) % 256 else c.P) &&& W65816_XF)) ≠ 0 then c.X &&& 0xFF else c.X) ∧
      c1.Y = (if (c.emulation ||| ((if c.emulation ≠ 0 then (c.P ||| 0x20) % 256 else c.P) &&& W65816_XF)) ≠ 0 then c.Y &&& 0xFF else c.Y) := by
  rw [tick_sync_op c a 0xA0 bank rw hb hi hn]
  have e : ((0xA0 % 256) <<< 3) % 65536 = 0x500 := by decide
  rw [e, decode_A0_0, opA0_0_word, Option.map_some', tick_finish_pair]
  exact ⟨_, rfl, tick_finish_IR _ _, tick_finish_PC _ _, tick_finish_C _ _, tick_finish_P _ _, tick_finish_S _ _, tick_finish_emulation _ _, tick_finish_brk _ _, tick_finish_X _ _, tick_finish_Y _ _⟩

theorem decode_A0_1 (c : w65816_t) (p : Nat) :
    w65816_decode 0x501 c p = op_A0 1 c p := by
  simp only [w65816_decode, decode_A, Nat.reduceDiv, Nat.reduceMod]

theorem opA0_1_word_i16 (c : w65816_t) (f : PinF) (hx : _i8 c = false) :
    op_A0 1 c f.word = some ({ set_Y c (f.d % 256) with PC := (c.PC + 1) % 65536 },
      ({ f with a := c.PC, vpa := true } : PinF).word) := by
  simp only [op_A0, GD_word, i8_set_Y, hx, Bool.false_eq_true, if_false, VPA_word, SA_word, set_Y_PC]

/-- Sub-cycle 1 of LDY # with 16-bit index registers: the low byte of Y is loaded and the second
operand byte is addressed with VPA. -/
theorem ldy_t1_i16 (c : w65816_t) (a d bank : Nat) (rw vpa vda : Bool)
    (hs : (vpa && vda) = false) (hIR : c.IR = 0x501) (hx : _i8 c = false) :
    ∃ c1, w65816_tick c (qpins a d rw vpa vda bank).word =
        some (c1, (qpins c.PC d true true false bank).word) ∧
      c1.IR = 0x502 ∧ c1.PC = (c.PC + 1) % 65536 ∧ c1.C = c.C ∧
      c1.P = (if c.emulation ≠ 0 then (c.P ||| 0x20) % 256 else c.P) ∧
      c1.S = (if c.emulation ≠ 0 then 0x0100 ||| (c.S &&& 0xFF) else c.S) ∧
      c1.emulation = c.emulation ∧ c1.brk_flags = c.brk_flags ∧
      c1.X = (if (c.emulation ||| ((if c.emulation ≠ 0 then (c.P ||| 0x20) % 256 else c.P) &&& W65816_XF)) ≠ 0 then c.X &&& 0xFF else c.X) ∧
      c1.Y = (if (c.emulation ||| ((if c.emulation ≠ 0 then (c.P ||| 0x20) % 256 else c.P) &&& W65816_XF)) ≠ 0 then ((c.Y &&& 0xFF00) ||| (d % 256 &&& 0xFF)) &&& 0xFF else ((c.Y &&& 0xFF00) ||| (d % 256 &&& 0xFF))) := by
  rw [tick_step_op c a d bank rw vpa vda hs, hIR, decode_A0_1,
    opA0_1_word_i16, Option.map_some', tick_finish_pair]
  · exact ⟨_, rfl, tick_finish_IR _ _, tick_finish_PC _ _, tick_finish_C _ _, tick_finish_P _ _, tick_finish_S _ _, tick_finish_emulation _ _, tick_finish_brk _ _, tick_finish_X _ _, tick_finish_Y _ _⟩
  · exact hx

theorem decode_A0_2 (c : w65816_t) (p : Nat) :
    w65816_decode 0x502 c p = op_A0 2 c p := by
  simp only [w65816_decode, decode_A, Nat.reduceDiv, Nat.reduceMod]

theorem opA0_2_word (c : w65816_t) (f : PinF) :
    op_A0 2 c f.word = some (_NZ16 (set_YH c (f.d % 256)) (_Y (set_YH c (f.d % 256))),
      ({ f with a := c.PC, vpa := true, vda := true } : PinF).word) := by
  simp only [op_A0, GD_word, FETCH_word, NZ16_PC, set_YH_PC]

/-- Sub-cycle 2 of LDY # (16-bit index registers): the high byte of Y is loaded, `_NZ16` is applied
to `_Y(c)`, the low byte of Y, and the next opcode fetch is issued. -/
theorem ldy_t2 (c : w65816_t) (a d bank : Nat) (rw vpa vda : Bool)
    (hs : (vpa && vda) = false) (hIR : c.IR = 0x502) :
    ∃ c1, w65816_tick c (qpins a d rw vpa vda bank).word =
        some (c1, (qpins c.PC d true true true bank).word) ∧
      c1.IR = 0x503 ∧ c1.PC = c.PC ∧ c1.C = c.C ∧
      c1.P = (if c.emulation ≠ 0 then ((_NZ16 (set_YH c (d % 256)) (_Y (set_YH c (d % 256)))).P ||| 0x20) % 256 else (_NZ16 (set_YH c (d % 256)) (_Y (set_YH c (d % 256)))).P) ∧
      c1.S = (if c.emulation ≠ 0 then 0x0100 ||| (c.S &&& 0xFF) else c.S) ∧
      c1.emulation = c.emulation ∧ c1.brk_flags = c.brk_flags ∧
      c1.X = (if (c.emulation ||| ((if c.emulation ≠ 0 then ((_NZ16 (set_YH c (d % 256)) (_Y (set_YH c (d % 256)))).P ||| 0x20) % 256 else (_NZ16 (set_YH c (d % 256)) (_Y (set_YH c (d % 256)))).P) &&& W65816_XF)) ≠ 0 then c.X &&& 0xFF else c.X) ∧
      c1.Y = (if (c.emulation ||| ((if c.emulation ≠ 0 then ((_NZ16 (set_YH c (d % 256)) (_Y (set_YH c (d % 256)))).P ||| 0x20) % 256 else (_NZ16 (set_YH c (d % 256)) (_Y (set_YH c (d % 256)))).P) &&& W65816_XF)) ≠ 0 then ((c.Y &&& 0xFF) ||| ((d % 256 &&& 0xFF) <<< 8)) &&& 0xFF else ((c.Y &&& 0xFF) ||| ((d % 256 &&& 0xFF) <<< 8))) := by
  rw [tick_step_op c a d bank rw vpa vda hs, hIR, decode_A0_2,
    opA0_2_word, Option.map_some', tick_finish_pair]
  exact ⟨_, rfl, tick_finish_IR _ _, tick_finish_PC _ _, tick_finish_C _ _, tick_finish_P _ _, tick_finish_S _ _, tick_finish_emulation _ _, tick_finish_brk _ _, tick_finish_X _ _, tick_finish_Y _ _⟩

/-! ### LDA a,x (0xBD) -/

theorem decode_BD_0 (c : w65816_t) (p : Nat) :
    w65816_decode 0x5E8 c p = op_BD 0 c p := by
  simp only [w65816_decode, decode_B, Nat.reduceDiv, Nat.reduceMod]

theorem opBD_0_word (c : w65816_t) (f : PinF) :
    op_BD 0 c f.word = some ({ c with PC := (c.PC + 1) % 65536 },
      ({ f with a := c.PC, vpa := true } : PinF).word) := by
  simp only [op_BD, VPA_word, SA_word]

/-- Sync tick of LDA a,x: the operand byte after the opcode is addressed with VPA. -/
theorem ldax_t0 (c : w65816_t) (a bank : Nat) (rw : Bool) (hb : c.brk_flags = 0)
    (hi : c.irq_pip = 0) (hn : c.nmi_pip = 0) :
    ∃ c1, w65816_tick c (qpins a 0xBD rw true true bank).word =
        some (c1, (qpins ((c.PC + 1) % 65536) 0xBD true true false bank).word) ∧
      c1.IR = 0x5E9 ∧ c1.PC = ((c.PC + 1) % 65536 + 1) % 65536 ∧ c1.C = c.C ∧
      c1.P = (if c.emulation ≠ 0 then (c.P ||| 0x20) % 256 else c.P) ∧
      c1.S = (if c.emulation ≠ 0 then 0x0100 ||| (c.S &&& 0xFF) else c.S) ∧
      c1.emulation = c.emulation ∧ c1.brk_flags = 0 ∧ c1.X &&& 0xFF = c.X &&& 0xFF := by
  rw [tick_sync_op c a 0xBD bank rw hb hi hn]
  have e : ((0xBD % 256) <<< 3) % 65536 = 0x5E8 := by decide
  rw [e, decode_BD_0, opBD_0_word, Option.map_some', tick_finish_pair]
  exact ⟨_, rfl, tick_finish_IR _ _, tick_finish_PC _ _, tick_finish_C _ _, tick_finish_P _ _, tick_finish_S _ _, tick_finish_emulation _ _, tick_finish_brk _ _, tick_finish_Xlow _ _⟩

theorem decode_BD_1 (c : w65816_t) (p : Nat) :
    w65816_decode 0x5E9 c p = op_BD 1 c p := by
  simp only [w65816_decode, decode_B, Nat.reduceDiv, Nat.reduceMod]

theorem opBD_1_word (c : w65816_t) (f : PinF) :
    op_BD 1 c f.word = some ({ c with PC := (c.PC + 1) % 65536, AD := f.d % 256 },
      ({ f with a := c.PC, vpa := true } : PinF).word) := by
  simp only [op_BD, VPA_word, SA_word, GD_word]

/-- Sub-cycle 1 of LDA a,x: the low operand byte is latched in AD and the high operand byte is
addressed with VPA. -/
theorem ldax_t1 (c : w65816_t) (a d bank : Nat) (rw vpa vda : Bool)
    (hs : (vpa && vda) = false) (hIR : c.IR = 0x5E9) :
    ∃ c1, w65816_tick c (qpins a d rw vpa vda bank).word =
        some (c1, (qpins c.PC d true true false bank).word) ∧
      c1.IR = 0x5EA ∧ c1.PC = (c.PC + 1) % 65536 ∧ c1.C = c.C ∧
      c1.P = (if c.emulation ≠ 0 then (c.P ||| 0x20) % 256 else c.P) ∧
      c1.S = (if c.emulation ≠ 0 then 0x0100 ||| (c.S &&& 0xFF) else c.S) ∧
      c1.emulation = c.emulation ∧ c1.brk_flags = c.brk_flags ∧ c1.AD = d % 256 ∧
      c1.X &&& 0xFF = c.X &&& 0xFF := by
  rw [tick_step_op c a d bank rw vpa vda hs, hIR, decode_BD_1,
    opBD_1_word, Option.map_some', tick_finish_pair]
  exact ⟨_, rfl, tick_finish_IR _ _, tick_finish_PC _ _, tick_finish_C _ _, tick_finish_P _ _, tick_finish_S _ _, tick_finish_emulation _ _, tick_finish_brk _ _, tick_finish_AD _ _, tick_finish_Xlow _ _⟩

theorem decode_BD_2 (c : w65816_t) (p : Nat) :
    w65816_decode 0x5EA c p = op_BD 2 c p := by
  simp only [w65816_decode, decode_B, Nat.reduceDiv, Nat.reduceMod]

theorem SUB32_self (x : Nat) : SUB32 x x = 0 := by
  unfold SUB32
  omega

theorem SUB32_succ (x : Nat) (hx : x + 1 < 0x100000000) : SUB32 x (x + 1) = 0xFFFFFFFF := by
  unfold SUB32
  omega

/-- The skip term of the indexed addressing modes, `(~((AD>>8)-((AD+x)>>8)))&1`, is 1 when
AD + x lies in the page of AD. -/
theorem page_same (ad xl : Nat) (h : ad % 256 + xl < 256) :
    NOT32 (SUB32 (ad >>> 8) ((ad + xl) >>> 8)) &&& 1 = 1 := by
  have e : (ad + xl) >>> 8 = ad >>> 8 := by
    simp only [Nat.shiftRight_eq_div_pow, Nat.reducePow]
    omega
  rw [e, SUB32_self]
  decide

/-- The skip term of the indexed addressing modes is 0 when AD + x leaves the page of AD. -/
theorem page_cross (ad xl : Nat) (had : ad < 65536) (hx : xl < 256) (h : 256 ≤ ad % 256 + xl) :
    NOT32 (SUB32 (ad >>> 8) ((ad + xl) >>> 8)) &&& 1 = 0 := by
  have e : (ad + xl) >>> 8 = ad >>> 8 + 1 := by
    simp only [Nat.shiftRight_eq_div_pow, Nat.reducePow]
    omega
  have e2 : ad >>> 8 + 1 < 0x100000000 := by
    simp only [Nat.shiftRight_eq_div_pow, Nat.reducePow]
    omega
  rw [e, SUB32_succ _ e2]
  decide

theorem Xlow_lt (c : w65816_t) : c.X &&& 0xFF < 256 := by
  rw [and_FF]; omega

theorem opBD_2_word_same (c : w65816_t) (f : PinF)
    (hpg : ((c.AD ||| ((f.d % 256) <<< 8)) % 65536) % 256 + (c.X &&& 0xFF) < 256) :
    op_BD 2 c f.word = some ({ c with AD := ((c.AD ||| ((f.d % 256) <<< 8)) % 65536), IR := (c.IR + 1) % 65536 },
      ({ f with a := (((c.AD ||| ((f.d % 256) <<< 8)) % 65536) &&& 0xFF00) ||| ((((c.AD ||| ((f.d % 256) <<< 8)) % 65536) + (c.X &&& 0xFF)) &&& 0xFF) } : PinF).word) := by
  simp only [op_BD, GD_word, SA_word, _X, page_same _ _ hpg]

theorem opBD_2_word_cross (c : w65816_t) (f : PinF)
    (hpg : 256 ≤ ((c.AD ||| ((f.d % 256) <<< 8)) % 65536) % 256 + (c.X &&& 0xFF)) :
    op_BD 2 c f.word = some ({ c with AD := ((c.AD ||| ((f.d % 256) <<< 8)) % 65536), IR := (c.IR + 0) % 65536 },
      ({ f with a := (((c.AD ||| ((f.d % 256) <<< 8)) % 65536) &&& 0xFF00) ||| ((((c.AD ||| ((f.d % 256) <<< 8)) % 65536) + (c.X &&& 0xFF)) &&& 0xFF) } : PinF).word) := by
  simp only [op_BD, GD_word, SA_word, _X,
    page_cross _ _ (Nat.mod_lt _ (by decide)) (Xlow_lt c) hpg]

/-- Sub-cycle 2 of LDA a,x when operand + `_X(c)` stays in the page of the operand: AD holds the
operand, the indexed address is put on the pins without VDA and sub-cycle 3 is skipped. -/
theorem ldax_t2_same (c : w65816_t) (a d bank : Nat) (rw vpa vda : Bool)
    (hs : (vpa && vda) = false) (hIR : c.IR = 0x5EA)
    (hpg : ((c.AD ||| ((d % 256) <<< 8)) % 65536) % 256 + (c.X &&& 0xFF) < 256) :
    ∃ c1, w65816_tick c (qpins a d rw vpa vda bank).word =
        some (c1, (qpins ((((c.AD ||| ((d % 256) <<< 8)) % 65536) &&& 0xFF00) ||| ((((c.AD ||| ((d % 256) <<< 8)) % 65536) + (c.X &&& 0xFF)) &&& 0xFF)) d true false false bank).word) ∧
      c1.IR = 0x5EC ∧ c1.PC = c.PC ∧ c1.C = c.C ∧
      c1.P = (if c.emulation ≠ 0 then (c.P ||| 0x20) % 256 else c.P) ∧
      c1.S = (if c.emulation ≠ 0 then 0x0100 ||| (c.S &&& 0xFF) else c.S) ∧
      c1.emulation = c.emulation ∧ c1.brk_flags = c.brk_flags ∧
      c1.AD = ((c.AD ||| ((d % 256) <<< 8)) % 65536) ∧ c1.X &&& 0xFF = c.X &&& 0xFF := by
  rw [tick_step_op c a d bank rw vpa vda hs, hIR, decode_BD_2,
    opBD_2_word_same, Option.map_some', tick_finish_pair]
  · exact ⟨_, rfl, tick_finish_IR _ _, tick_finish_PC _ _, tick_finish_C _ _, tick_finish_P _ _, tick_finish_S _ _, tick_finish_emulation _ _, tick_finish_brk _ _, tick_finish_AD _ _, tick_finish_Xlow _ _⟩
  · exact hpg

/-- Sub-cycle 2 of LDA a,x when operand + `_X(c)` leaves the page of the operand: AD holds the
operand, the address with the uncorrected page is put on the pins and sub-cycle 3 follows. -/
theorem ldax_t2_cross (c : w65816_t) (a d bank : Nat) (rw vpa vda : Bool)
    (hs : (vpa && vda) = false) (hIR : c.IR = 0x5EA)
    (hpg : 256 ≤ ((c.AD ||| ((d % 256) <<< 8)) % 65536) % 256 + (c.X &&& 0xFF)) :
    ∃ c1, w65816_tick c (qpins a d rw vpa vda bank).word =
        some (c1, (qpins ((((c.AD ||| ((d % 256) <<< 8)) % 65536) &&& 0xFF00) ||| ((((c.AD ||| ((d % 256) <<< 8)) % 65536) + (c.X &&& 0xFF)) &&& 0xFF)) d true false false bank).word) ∧
      c1.IR = 0x5EB ∧ c1.PC = c.PC ∧ c1.C = c.C ∧
      c1.P = (if c.emulation ≠ 0 then (c.P ||| 0x20) % 256 else c.P) ∧
      c1.S = (if c.emulation ≠ 0 then 0x0100 ||| (c.S &&& 0xFF) else c.S) ∧
      c1.emulation = c.emulation ∧ c1.brk_flags = c.brk_flags ∧
      c1.AD = ((c.AD ||| ((d % 256) <<< 8)) % 65536) ∧ c1.X &&& 0xFF = c.X &&& 0xFF := by
  rw [tick_step_op c a d bank rw vpa vda hs, hIR, decode_BD_2,
    opBD_2_word_cross, Option.map_some', tick_finish_pair]
  · exact ⟨_, rfl, tick_finish_IR _ _, tick_finish_PC _ _, tick_finish_C _ _, tick_finish_P _ _, tick_finish_S _ _, tick_finish_emulation _ _, tick_finish_brk _ _, tick_finish_AD _ _, tick_finish_Xlow _ _⟩
  · exact hpg

theorem decode_BD_3 (c : w65816_t) (p : Nat) :
    w65816_decode 0x5EB c p = op_BD 3 c p := by
  simp only [w65816_decode, decode_B, Nat.reduceDiv, Nat.reduceMod]

theorem opBD_3_word (c : w65816_t) (f : PinF) :
    op_BD 3 c f.word = some (c,
      ({ f with a := c.AD + (c.X &&& 0xFF), vda := true } : PinF).word) := by
  simp only [op_BD, VDA_word, SA_word, _X]

/-- Sub-cycle 3 of LDA a,x (page crossed): the address AD + `_X(c)` is put on the pins with VDA. -/
theorem ldax_t3 (c : w65816_t) (a d bank : Nat) (rw vpa vda : Bool)
    (hs : (vpa && vda) = false) (hIR : c.IR = 0x5EB) :
    ∃ c1, w65816_tick c (qpins a d rw vpa vda bank).word =
        some (c1, (qpins (c.AD + (c.X &&& 0xFF)) d true false true bank).word) ∧
      c1.IR = 0x5EC ∧ c1.PC = c.PC ∧ c1.C = c.C ∧
      c1.P = (if c.emulation ≠ 0 then (c.P ||| 0x20) % 256 else c.P) ∧
      c1.S = (if c.emulation ≠ 0 then 0x0100 ||| (c.S &&& 0xFF) else c.S) ∧
      c1.emulation = c.emulation ∧ c1.brk_flags = c.brk_flags ∧ c1.AD = c.AD ∧
      c1.X &&& 0xFF = c.X &&& 0xFF := by
  rw [tick_step_op c a d bank rw vpa vda hs, hIR, decode_BD_3,
    opBD_3_word, Option.map_some', tick_finish_pair]
  exact ⟨_, rfl, tick_finish_IR _ _, tick_finish_PC _ _, tick_finish_C _ _, tick_finish_P _ _, tick_finish_S _ _, tick_finish_emulation _ _, tick_finish_brk _ _, tick_finish_AD _ _, tick_finish_Xlow _ _⟩

theorem decode_BD_4 (c : w65816_t) (p : Nat) :
    w65816_decode 0x5EC c p = op_BD 4 c p := by
  simp only [w65816_decode, decode_B, Nat.reduceDiv, Nat.reduceMod]

theorem opBD_4_word_a8 (c : w65816_t) (f : PinF) (ha : _a8 c = true) :
    op_BD 4 c f.word = some (_NZ (set_A c (f.d % 256)) (_A (set_A c (f.d % 256))),
      ({ f with a := c.PC, vpa := true, vda := true } : PinF).word) := by
  simp only [op_BD, GD_word, a8_set_A, ha, if_true, FETCH_word, NZ_PC, set_A_PC]

/-- Sub-cycle 4 of LDA a,x with an 8-bit accumulator: A is loaded from the data bus, N and Z are
set and the next opcode fetch is issued. -/
theorem ldax_t4_a8 (c : w65816_t) (a d bank : Nat) (rw vpa vda : Bool)
    (hs : (vpa && vda) = false) (hIR : c.IR = 0x5EC) (ha : _a8 c = true) :
    ∃ c1, w65816_tick c (qpins a d rw vpa vda bank).word =
        some (c1, (qpins c.PC d true true true bank).word) ∧
      c1.IR = 0x5ED ∧ c1.PC = c.PC ∧ c1.C = (c.C &&& 0xFF00) ||| (d % 256 &&& 0xFF) ∧
      c1.P = (if c.emulation ≠ 0 then ((_NZ (set_A c (d % 256)) (_A (set_A c (d % 256)))).P ||| 0x20) % 256 else (_NZ (set_A c (d % 256)) (_A (set_A c (d % 256)))).P) ∧
      c1.S = (if c.emulation ≠ 0 then 0x0100 ||| (c.S &&& 0xFF) else c.S) ∧
      c1.emulation = c.emulation ∧ c1.brk_flags = c.brk_flags := by
  rw [tick_step_op c a d bank rw vpa vda hs, hIR, decode_BD_4,
    opBD_4_word_a8, Option.map_some', tick_finish_pair]
  · exact ⟨_, rfl, tick_finish_IR _ _, tick_finish_PC _ _, tick_finish_C _ _, tick_finish_P _ _, tick_finish_S _ _, tick_finish_emulation _ _, tick_finish_brk _ _⟩
  · exact ha

/-! ### JSR a (0x20) -/

theorem decode_20_0 (c : w65816_t) (p : Nat) :
    w65816_decode 0x100 c p = op_20 0 c p := by
  simp only [w65816_decode, decode_2, Nat.reduceDiv, Nat.reduceMod]

theorem op20_0_word (c : w65816_t) (f : PinF) :
    op_20 0 c f.word = some ({ c with PC := (c.PC + 1) % 65536 },
      ({ f with a := c.PC, vpa := true } : PinF).word) := by
  simp only [op_20, VPA_word, SA_word]

/-- Sync tick of JSR a: the operand byte after the opcode is addressed with VPA. -/
theorem jsr_t0 (c : w65816_t) (a bank : Nat) (rw : Bool) (hb : c.brk_flags = 0)
    (hi : c.irq_pip = 0) (hn : c.nmi_pip = 0) :
    ∃ c1, w65816_tick c (qpins a 0x20 rw true true bank).word =
        some (c1, (qpins ((c.PC + 1) % 65536) 0x20 true true false bank).word) ∧
      c1.IR = 0x101 ∧ c1.PC = ((c.PC + 1) % 65536 + 1) % 65536 ∧ c1.C = c.C ∧
      c1.P = (if c.emulation ≠ 0 then (c.P ||| 0x20) % 256 else c.P) ∧
      c1.S = (if c.emulation ≠ 0 then 0x0100 ||| (c.S &&& 0xFF) else c.S) ∧
      c1.emulation = c.emulation ∧ c1.brk_flags = 0 := by
  rw [tick_sync_op c a 0x20 bank rw hb hi hn]
  have e : ((0x20 % 256) <<< 3) % 65536 = 0x100 := by decide
  rw [e, decode_20_0, op20_0_word, Option.map_some', tick_finish_pair]
  exact ⟨_, rfl, tick_finish_IR _ _, tick_finish_PC _ _, tick_finish_C _ _, tick_finish_P _ _, tick_finish_S _ _, tick_finish_emulation _ _, tick_finish_brk _ _⟩

theorem decode_20_1 (c : w65816_t) (p : Nat) :
    w65816_decode 0x101 c p = op_20 1 c p := by
  simp only [w65816_decode, decode_2, Nat.reduceDiv, Nat.reduceMod]

theorem op20_1_word (c : w65816_t) (f : PinF) :
    op_20 1 c f.word = some ({ c with AD := f.d % 256 },
      ({ f with a := 0x0100 ||| _S c } : PinF).word) := by
  simp only [op_20, SA_word, GD_word]

/-- Sub-cycle 1 of JSR a: the low byte of the target is latched in AD, the stack page is addressed. -/
theorem jsr_t1 (c : w65816_t) (a d bank : Nat) (rw vpa vda : Bool)
    (hs : (vpa && vda) = false) (hIR : c.IR = 0x101) :
    ∃ c1, w65816_tick c (qpins a d rw vpa vda bank).word =
        some (c1, (qpins (0x0100 ||| _S c) d true false false bank).word) ∧
      c1.IR = 0x102 ∧ c1.PC = c.PC ∧ c1.C = c.C ∧
      c1.P = (if c.emulation ≠ 0 then (c.P ||| 0x20) % 256 else c.P) ∧
      c1.S = (if c.emulation ≠ 0 then 0x0100 ||| (c.S &&& 0xFF) else c.S) ∧
      c1.emulation = c.emulation ∧ c1.brk_flags = c.brk_flags ∧ c1.AD = d % 256 := by
  rw [tick_step_op c a d bank rw vpa vda hs, hIR, decode_20_1,
    op20_1_word, Option.map_some', tick_finish_pair]
  exact ⟨_, rfl, tick_finish_IR _ _, tick_finish_PC _ _, tick_finish_C _ _, tick_finish_P _ _, tick_finish_S _ _, tick_finish_emulation _ _, tick_finish_brk _ _, tick_finish_AD _ _⟩

theorem decode_20_2 (c : w65816_t) (p : Nat) :
    w65816_decode 0x102 c p = op_20 2 c p := by
  simp only [w65816_decode, decode_2, Nat.reduceDiv, Nat.reduceMod]

theorem op20_2_word (c : w65816_t) (f : PinF) :
    op_20 2 c f.word = some (set_S c (_S c + 255),
      ({ f with a := 0x0100 ||| _S c, d := c.PC >>> 8, rw := false, vda := true } : PinF).word) := by
  simp only [op_20, VDA_word, SAD_word, WR_word]

/-- Sub-cycle 2 of JSR a: the high byte of PC is written to the stack page and the low byte of S
is decremented. -/
theorem jsr_t2 (c : w65816_t) (a d bank : Nat) (rw vpa vda : Bool)
    (hs : (vpa && vda) = false) (hIR : c.IR = 0x102) :
    ∃ c1, w65816_tick c (qpins a d rw vpa vda bank).word =
        some (c1, (qpins (0x0100 ||| _S c) (c.PC >>> 8) false false true bank).word) ∧
      c1.IR = 0x103 ∧ c1.PC = c.PC ∧ c1.C = c.C ∧
      c1.P = (if c.emulation ≠ 0 then (c.P ||| 0x20) % 256 else c.P) ∧
      c1.S = (if c.emulation ≠ 0 then 0x0100 ||| (((c.S &&& 0xFF00) ||| ((_S c + 255) &&& 0xFF)) &&& 0xFF) else ((c.S &&& 0xFF00) ||| ((_S c + 255) &&& 0xFF))) ∧
      c1.emulation = c.emulation ∧ c1.brk_flags = c.brk_flags ∧ c1.AD = c.AD := by
  rw [tick_step_op c a d bank rw vpa vda hs, hIR, decode_20_2,
    op20_2_word, Option.map_some', tick_finish_pair]
  exact ⟨_, rfl, tick_finish_IR _ _, tick_finish_PC _ _, tick_finish_C _ _, tick_finish_P _ _, tick_finish_S _ _, tick_finish_emulation _ _, tick_finish_brk _ _, tick_finish_AD _ _⟩

theorem decode_20_3 (c : w65816_t) (p : Nat) :
    w65816_decode 0x103 c p = op_20 3 c p := by
  simp only [w65816_decode, decode_2, Nat.reduceDiv, Nat.reduceMod]

theorem op20_3_word (c : w65816_t) (f : PinF) :
    op_20 3 c f.word = some (set_S c (_S c + 255),
      ({ f with a := 0x0100 ||| _S c, d := c.PC, rw := false, vda := true } : PinF).word) := by
  simp only [op_20, VDA_word, SAD_word, WR_word]

/-- Sub-cycle 3 of JSR a: the low byte of PC is written to the stack page and the low byte of S
is decremented. -/
theorem jsr_t3 (c : w65816_t) (a d bank : Nat) (rw vpa vda : Bool)
    (hs : (vpa && vda) = false) (hIR : c.IR = 0x103) :
    ∃ c1, w65816_tick c (qpins a d rw vpa vda bank).word =
        some (c1, (qpins (0x0100 ||| _S c) (c.PC) false false true bank).word) ∧
      c1.IR = 0x104 ∧ c1.PC = c.PC ∧ c1.C = c.C ∧
      c1.P = (if c.emulation ≠ 0 then (c.P ||| 0x20) % 256 else c.P) ∧
      c1.S = (if c.emulation ≠ 0 then 0x0100 ||| (((c.S &&& 0xFF00) ||| ((_S c + 255) &&& 0xFF)) &&& 0xFF) else ((c.S &&& 0xFF00) ||| ((_S c + 255) &&& 0xFF))) ∧
      c1.emulation = c.emulation ∧ c1.brk_flags = c.brk_flags ∧ c1.AD = c.AD := by
  rw [tick_step_op c a d bank rw vpa vda hs, hIR, decode_20_3,
    op20_3_word, Option.map_some', tick_finish_pair]
  exact ⟨_, rfl, tick_finish_IR _ _, tick_finish_PC _ _, tick_finish_C _ _, tick_finish_P _ _, tick_finish_S _ _, tick_finish_emulation _ _, tick_finish_brk _ _, tick_finish_AD _ _⟩

theorem decode_20_4 (c : w65816_t) (p : Nat) :
    w65816_decode 0x104 c p = op_20 4 c p := by
  simp only [w65816_decode, decode_2, Nat.reduceDiv, Nat.reduceMod]

theorem op20_4_word (c : w65816_t) (f : PinF) :
    op_20 4 c f.word = some (c,
      ({ f with a := c.PC, vpa := true } : PinF).word) := by
  simp only [op_20, VPA_word, SA_word]

/-- Sub-cycle 4 of JSR a: the high byte of the target is addressed at PC with VPA. -/
theorem jsr_t4 (c : w65816_t) (a d bank : Nat) (rw vpa vda : Bool)
    (hs : (vpa && vda) = false) (hIR : c.IR = 0x104) :
    ∃ c1, w65816_tick c (qpins a d rw vpa vda bank).word =
        some (c1, (qpins c.PC d true true false bank).word) ∧
      c1.IR = 0x105 ∧ c1.PC = c.PC ∧ c1.C = c.C ∧
      c1.P = (if c.emulation ≠ 0 then (c.P ||| 0x20) % 256 else c.P) ∧
      c1.S = (if c.emulation ≠ 0 then 0x0100 ||| (c.S &&& 0xFF) else c.S) ∧
      c1.emulation = c.emulation ∧ c1.brk_flags = c.brk_flags ∧ c1.AD = c.AD := by
  rw [tick_step_op c a d bank rw vpa vda hs, hIR, decode_20_4,
    op20_4_word, Option.map_some', tick_finish_pair]
  exact ⟨_, rfl, tick_finish_IR _ _, tick_finish_PC _ _, tick_finish_C _ _, tick_finish_P _ _, tick_finish_S _ _, tick_finish_emulation _ _, tick_finish_brk _ _, tick_finish_AD _ _⟩

theorem decode_20_5 (c : w65816_t) (p : Nat) :
    w65816_decode 0x105 c p = op_20 5 c p := by
  simp only [w65816_decode, decode_2, Nat.reduceDiv, Nat.reduceMod]

theorem op20_5_word (c : w65816_t) (f : PinF) :
    op_20 5 c f.word = some ({ c with PC := ((((f.d % 256) <<< 8) ||| c.AD) % 65536) },
      ({ f with a := ((((f.d % 256) <<< 8) ||| c.AD) % 65536), vpa := true, vda := true } : PinF).word) := by
  simp only [op_20, GD_word, FETCH_word]

/-- Sub-cycle 5 of JSR a: PC becomes the target and the opcode fetch at the target is issued. -/
theorem jsr_t5 (c : w65816_t) (a d bank : Nat) (rw vpa vda : Bool)
    (hs : (vpa && vda) = false) (hIR : c.IR = 0x105) :
    ∃ c1, w65816_tick c (qpins a d rw vpa vda bank).word =
        some (c1, (qpins ((((d % 256) <<< 8) ||| c.AD) % 65536) d true true true bank).word) ∧
      c1.IR = 0x106 ∧ c1.PC = ((((d % 256) <<< 8) ||| c.AD) % 65536) ∧ c1.C = c.C ∧
      c1.P = (if c.emulation ≠ 0 then (c.P ||| 0x20) % 256 else c.P) ∧
      c1.S = (if c.emulation ≠ 0 then 0x0100 ||| (c.S &&& 0xFF) else c.S) ∧
      c1.emulation = c.emulation ∧ c1.brk_flags = c.brk_flags := by
  rw [tick_step_op c a d bank rw vpa vda hs, hIR, decode_20_5,
    op20_5_word, Option.map_some', tick_finish_pair]
  exact ⟨_, rfl, tick_finish_IR _ _, tick_finish_PC _ _, tick_finish_C _ _, tick_finish_P _ _, tick_finish_S _ _, tick_finish_emulation _ _, tick_finish_brk _ _⟩

/-! ### RTS (0x60) -/

theorem decode_60_0 (c : w65816_t) (p : Nat) :
    w65816_decode 0x300 c p = op_60 0 c p := by
  simp only [w65816_decode, decode_6, Nat.reduceDiv, Nat.reduceMod]

theorem op60_0_word (c : w65816_t) (f : PinF) :
    op_60 0 c f.word = some (c,
      ({ f with a := c.PC } : PinF).word) := by
  simp only [op_60, SA_word]

/-- Sync tick of RTS: the opcode is decoded and PC is incremented. -/
theorem rts_t0 (c : w65816_t) (a bank : Nat) (rw : Bool) (hb : c.brk_flags = 0)
    (hi : c.irq_pip = 0) (hn : c.nmi_pip = 0) :
    ∃ c1, w65816_tick c (qpins a 0x60 rw true true bank).word =
        some (c1, (qpins ((c.PC + 1) % 65536) 0x60 true false false bank).word) ∧
      c1.IR = 0x301 ∧ c1.PC = ((c.PC + 1) % 65536) ∧ c1.C = c.C ∧
      c1.P = (if c.emulation ≠ 0 then (c.P ||| 0x20) % 256 else c.P) ∧
      c1.S = (if c.emulation ≠ 0 then 0x0100 ||| (c.S &&& 0xFF) else c.S) ∧
      c1.emulation = c.emulation ∧ c1.brk_flags = 0 := by
  rw [tick_sync_op c a 0x60 bank rw hb hi hn]
  have e : ((0x60 % 256) <<< 3) % 65536 = 0x300 := by decide
  rw [e, decode_60_0, op60_0_word, Option.map_some', tick_finish_pair]
  exact ⟨_, rfl, tick_finish_IR _ _, tick_finish_PC _ _, tick_finish_C _ _, tick_finish_P _ _, tick_finish_S _ _, tick_finish_emulation _ _, tick_finish_brk _ _⟩

theorem decode_60_1 (c : w65816_t) (p : Nat) :
    w65816_decode 0x301 c p = op_60 1 c p := by
  simp only [w65816_decode, decode_6, Nat.reduceDiv, Nat.reduceMod]

theorem op60_1_word (c : w65816_t) (f : PinF) :
    op_60 1 c f.word = some (set_S c (_S c + 1),
      ({ f with a := 0x0100 ||| _S c } : PinF).word) := by
  simp only [op_60, SA_word]

/-- Sub-cycle 1 of RTS: the stack page is addressed at the low byte of S, which is then incremented. -/
theorem rts_t1 (c : w65816_t) (a d bank : Nat) (rw vpa vda : Bool)
    (hs : (vpa && vda) = false) (hIR : c.IR = 0x301) :
    ∃ c1, w65816_tick c (qpins a d rw vpa vda bank).word =
        some (c1, (qpins (0x0100 ||| _S c) d true false false bank).word) ∧
      c1.IR = 0x302 ∧ c1.PC = c.PC ∧ c1.C = c.C ∧
      c1.P = (if c.emulation ≠ 0 then (c.P ||| 0x20) % 256 else c.P) ∧
      c1.S = (if c.emulation ≠ 0 then 0x0100 ||| (((c.S &&& 0xFF00) ||| ((_S c + 1) &&& 0xFF)) &&& 0xFF) else ((c.S &&& 0xFF00) ||| ((_S c + 1) &&& 0xFF))) ∧
      c1.emulation = c.emulation ∧ c1.brk_flags = c.brk_flags := by
  rw [tick_step_op c a d bank rw vpa vda hs, hIR, decode_60_1,
    op60_1_word, Option.map_some', tick_finish_pair]
  exact ⟨_, rfl, tick_finish_IR _ _, tick_finish_PC _ _, tick_finish_C _ _, tick_finish_P _ _, tick_finish_S _ _, tick_finish_emulation _ _, tick_finish_brk _ _⟩

theorem decode_60_2 (c : w65816_t) (p : Nat) :
    w65816_decode 0x302 c p = op_60 2 c p := by
  simp only [w65816_decode, decode_6, Nat.reduceDiv, Nat.reduceMod]

theorem op60_2_word (c : w65816_t) (f : PinF) :
    op_60 2 c f.word = some (set_S c (_S c + 1),
      ({ f with a := 0x0100 ||| _S c, vda := true } : PinF).word) := by
  simp only [op_60, VDA_word, SA_word]

/-- Sub-cycle 2 of RTS: the stack page is addressed at the low byte of S, which is then incremented. -/
theorem rts_t2 (c : w65816_t) (a d bank : Nat) (rw vpa vda : Bool)
    (hs : (vpa && vda) = false) (hIR : c.IR = 0x302) :
    ∃ c1, w65816_tick c (qpins a d rw vpa vda bank).word =
        some (c1, (qpins (0x0100 ||| _S c) d true false true bank).word) ∧
      c1.IR = 0x303 ∧ c1.PC = c.PC ∧ c1.C = c.C ∧
      c1.P = (if c.emulation ≠ 0 then (c.P ||| 0x20) % 256 else c.P) ∧
      c1.S = (if c.emulation ≠ 0 then 0x0100 ||| (((c.S &&& 0xFF00) ||| ((_S c + 1) &&& 0xFF)) &&& 0xFF) else ((c.S &&& 0xFF00) ||| ((_S c + 1) &&& 0xFF))) ∧
      c1.emulation = c.emulation ∧ c1.brk_flags = c.brk_flags := by
  rw [tick_step_op c a d bank rw vpa vda hs, hIR, decode_60_2,
    op60_2_word, Option.map_some', tick_finish_pair]
  exact ⟨_, rfl, tick_finish_IR _ _, tick_finish_PC _ _, tick_finish_C _ _, tick_finish_P _ _, tick_finish_S _ _, tick_finish_emulation _ _, tick_finish_brk _ _⟩

theorem decode_60_3 (c : w65816_t) (p : Nat) :
    w65816_decode 0x303 c p = op_60 3 c p := by
  simp only [w65816_decode, decode_6, Nat.reduceDiv, Nat.reduceMod]

theorem op60_3_word (c : w65816_t) (f : PinF) :
    op_60 3 c f.word = some ({ c with AD := f.d % 256 },
      ({ f with a := 0x0100 ||| _S c, vda := true } : PinF).word) := by
  simp only [op_60, VDA_word, SA_word, GD_word]

/-- Sub-cycle 3 of RTS: the low byte of the return address is latched in AD, the stack page is
addressed at the low byte of S. -/
theorem rts_t3 (c : w65816_t) (a d bank : Nat) (rw vpa vda : Bool)
    (hs : (vpa && vda) = false) (hIR : c.IR = 0x303) :
    ∃ c1, w65816_tick c (qpins a d rw vpa vda bank).word =
        some (c1, (qpins (0x0100 ||| _S c) d true false true bank).word) ∧
      c1.IR = 0x304 ∧ c1.PC = c.PC ∧ c1.C = c.C ∧
      c1.P = (if c.emulation ≠ 0 then (c.P ||| 0x20) % 256 else c.P) ∧
      c1.S = (if c.emulation ≠ 0 then 0x0100 ||| (c.S &&& 0xFF) else c.S) ∧
      c1.emulation = c.emulation ∧ c1.brk_flags = c.brk_flags ∧ c1.AD = d % 256 := by
  rw [tick_step_op c a d bank rw vpa vda hs, hIR, decode_60_3,
    op60_3_word, Option.map_some', tick_finish_pair]
  exact ⟨_, rfl, tick_finish_IR _ _, tick_finish_PC _ _, tick_finish_C _ _, tick_finish_P _ _, tick_finish_S _ _, tick_finish_emulation _ _, tick_finish_brk _ _, tick_finish_AD _ _⟩

theorem decode_60_4 (c : w65816_t) (p : Nat) :
    w65816_decode 0x304 c p = op_60 4 c p := by
  simp only [w65816_decode, decode_6, Nat.reduceDiv, Nat.reduceMod]

theorem op60_4_word (c : w65816_t) (f : PinF) :
    op_60 4 c f.word = some ({ c with PC := (((((f.d % 256) <<< 8) ||| c.AD) % 65536) + 1) % 65536 },
      ({ f with a := ((((f.d % 256) <<< 8) ||| c.AD) % 65536) } : PinF).word) := by
  simp only [op_60, GD_word, SA_word]

/-- Sub-cycle 4 of RTS: the address pulled from the stack is put on the pins and PC becomes that
address plus one. -/
theorem rts_t4 (c : w65816_t) (a d bank : Nat) (rw vpa vda : Bool)
    (hs : (vpa && vda) = false) (hIR : c.IR = 0x304) :
    ∃ c1, w65816_tick c (qpins a d rw vpa vda bank).word =
        some (c1, (qpins ((((d % 256) <<< 8) ||| c.AD) % 65536) d true false false bank).word) ∧
      c1.IR = 0x305 ∧ c1.PC = (((((d % 256) <<< 8) ||| c.AD) % 65536) + 1) % 65536 ∧ c1.C = c.C ∧
      c1.P = (if c.emulation ≠ 0 then (c.P ||| 0x20) % 256 else c.P) ∧
      c1.S = (if c.emulation ≠ 0 then 0x0100 ||| (c.S &&& 0xFF) else c.S) ∧
      c1.emulation = c.emulation ∧ c1.brk_flags = c.brk_flags := by
  rw [tick_step_op c a d bank rw vpa vda hs, hIR, decode_60_4,
    op60_4_word, Option.map_some', tick_finish_pair]
  exact ⟨_, rfl, tick_finish_IR _ _, tick_finish_PC _ _, tick_finish_C _ _, tick_finish_P _ _, tick_finish_S _ _, tick_finish_emulation _ _, tick_finish_brk _ _⟩

theorem decode_60_5 (c : w65816_t) (p : Nat) :
    w65816_decode 0x305 c p = op_60 5 c p := by
  simp only [w65816_decode, decode_6, Nat.reduceDiv, Nat.reduceMod]

theorem op60_5_word (c : w65816_t) (f : PinF) :
    op_60 5 c f.word = some (c,
      ({ f with a := c.PC, vpa := true, vda := true } : PinF).word) := by
  simp only [op_60, FETCH_word]

/-- Sub-cycle 5 of RTS: the next opcode fetch is issued at PC. -/
theorem rts_t5 (c : w65816_t) (a d bank : Nat) (rw vpa vda : Bool)
    (hs : (vpa && vda) = false) (hIR : c.IR = 0x305) :
    ∃ c1, w65816_tick c (qpins a d rw vpa vda bank).word =
        some (c1, (qpins c.PC d true true true bank).word) ∧
      c1.IR = 0x306 ∧ c1.PC = c.PC ∧ c1.C = c.C ∧
      c1.P = (if c.emulation ≠ 0 then (c.P ||| 0x20) % 256 else c.P) ∧
      c1.S = (if c.emulation ≠ 0 then 0x0100 ||| (c.S &&& 0xFF) else c.S) ∧
      c1.emulation = c.emulation ∧ c1.brk_flags = c.brk_flags := by
  rw [tick_step_op c a d bank rw vpa vda hs, hIR, decode_60_5,
    op60_5_word, Option.map_some', tick_finish_pair]
  exact ⟨_, rfl, tick_finish_IR _ _, tick_finish_PC _ _, tick_finish_C _ _, tick_finish_P _ _, tick_finish_S _ _, tick_finish_emulation _ _, tick_finish_brk _ _⟩

/-! ## LDX # and LDY # with 16-bit index registers -/

theorem fin_index_id (e p x : Nat) (he : e = 0) (hx : p &&& W65816_XF = 0) :
    (if (e ||| ((if e ≠ 0 then (p ||| 0x20) % 256 else p) &&& W65816_XF)) ≠ 0 then x &&& 0xFF
      else x) = x := by
  subst he
  rw [if_neg (by decide : ¬ (0 ≠ 0)), hx]
  rfl

theorem i8_false (c : w65816_t) (he : c.emulation = 0) (hx : c.P &&& W65816_XF = 0) :
    _i8 c = false := by
  simp only [_i8, _E, he, hx]
  decide

theorem nz16_XF (p v : Nat) (h : p &&& W65816_XF = 0) :
    ((p &&& NOT32 (W65816_NF ||| W65816_ZF)) |||
      (if v &&& 0xFFFF ≠ 0 then (v >>> 8) &&& W65816_NF else W65816_ZF)) % 256 &&& W65816_XF = 0 := by
  have h4 := (flag_eq _ 4).1 h
  apply (flag_eq _ 4).2
  split_ifs <;>
    simp only [W65816_NF, W65816_ZF, Nat.testBit_or, Nat.testBit_and, testBit_mod256,
      testBit_NOT32, h4, Nat.reduceShiftLeft, Nat.reduceOr] <;>
    simp only [Nat.testBit_to_div_mod, Nat.reducePow, Nat.reduceDiv, Nat.reduceMod, Nat.reduceLT,
      Nat.reduceEqDiff, decide_True, decide_False, Bool.true_and, Bool.and_true, Bool.false_and,
      Bool.and_false, Bool.or_false, Bool.false_or, Bool.or_true, Bool.true_or, Bool.not_true,
      Bool.not_false]

/-- `_NZ16` applied to a byte: Z is set iff the byte is zero and N is never set. -/
theorem nz16_byte (p v : Nat) (hv : v < 256) :
    (((p &&& NOT32 (W65816_NF ||| W65816_ZF)) |||
      (if v &&& 0xFFFF ≠ 0 then (v >>> 8) &&& W65816_NF else W65816_ZF)) % 256 &&& W65816_ZF ≠ 0 ↔
        v = 0) ∧
    ((p &&& NOT32 (W65816_NF ||| W65816_ZF)) |||
      (if v &&& 0xFFFF ≠ 0 then (v >>> 8) &&& W65816_NF else W65816_ZF)) % 256 &&& W65816_NF = 0 := by
  have e1 : v &&& 0xFFFF = v := by
    rw [and_FFFF]; omega
  have e2 : v >>> 8 = 0 := by
    rw [Nat.shiftRight_eq_div_pow]
    exact Nat.div_eq_of_lt hv
  rw [e1, e2, Nat.zero_and]
  constructor
  · rw [show W65816_ZF = 1 <<< 1 from rfl, flag_ne]
    by_cases h0 : v = 0
    · rw [if_neg (not_not.2 h0)]
      simp only [Nat.testBit_or, Nat.testBit_and, testBit_mod256, testBit_NOT32, h0]
      simp only [Nat.testBit_to_div_mod, Nat.reducePow, Nat.reduceDiv, Nat.reduceMod,
        Nat.reduceLT, decide_True, Bool.true_and, Bool.or_true, Nat.reduceShiftLeft]
    · rw [if_pos h0]
      simp only [Nat.testBit_or, Nat.testBit_and, testBit_mod256, testBit_NOT32, h0,
        W65816_NF, W65816_ZF, Nat.reduceShiftLeft, Nat.reduceOr]
      simp only [Nat.testBit_to_div_mod, Nat.reducePow, Nat.reduceDiv, Nat.reduceMod,
        Nat.reduceLT, decide_True, decide_False, Bool.true_and, Bool.or_false, Bool.not_true,
        Bool.and_false, Nat.zero_div, Nat.zero_mod, Bool.false_eq_true, iff_false,
        not_false_eq_true, Nat.reduceEqDiff, zero_ne_one]
  · rw [show W65816_NF = 1 <<< 7 from rfl, flag_eq]
    split_ifs <;>
      simp only [Nat.testBit_or, Nat.testBit_and, testBit_mod256, testBit_NOT32,
        W65816_NF, W65816_ZF, Nat.reduceShiftLeft, Nat.reduceOr] <;>
      simp only [Nat.testBit_to_div_mod, Nat.reducePow, Nat.reduceDiv, Nat.reduceMod,
        Nat.reduceLT, decide_True, decide_False, Bool.true_and, Bool.or_false, Bool.not_true,
        Bool.and_false, Nat.zero_div, Nat.zero_mod, Nat.reduceEqDiff,
        zero_ne_one]

theorem low_of_hi (x v : Nat) : ((x &&& 0xFF) ||| ((v &&& 0xFF) <<< 8)) &&& 0xFF = x &&& 0xFF := by
  rw [Nat.shiftLeft_eq, Nat.or_comm, or_eq_add 8 _ _ (by simp) (by rw [and_FF]; omega), and_FF,
    and_FF, and_FF]
  omega

/-- LDX # under the host loop in native mode with 16-bit index registers (E = 0 and X flag
clear): three iterations, X holds the 16-bit immediate, the interrupt state and the width of
the index registers are kept.  The flags come from `_NZ16(_X(c))`, i.e. from the low byte of
X alone: Z is set iff the low operand byte is zero and N is cleared. -/
theorem run_ldx16 (n : Nat) (s0 : Sys) (c : w65816_t) (mem : Mem) (a bank : Nat) (rw : Bool)
    (h : host_run n s0 = some (Sys.mk c (qpins a 0xA2 rw true true bank).word mem))
    (hb : c.brk_flags = 0) (hi : c.irq_pip = 0) (hn : c.nmi_pip = 0)
    (he : c.emulation = 0) (hx : c.P &&& W65816_XF = 0) :
    ∃ c3, host_run (n + 3) s0 = some (Sys.mk c3 (qpins ((c.PC + 3) % 65536)
        (mem ((c.PC + 3) % 65536 + bank % 256 * 65536) % 256) true true true bank).word mem) ∧
      c3.PC = (c.PC + 3) % 65536 ∧
      c3.X = mem ((c.PC + 1) % 65536 + bank % 256 * 65536) % 256 |||
        ((mem ((c.PC + 2) % 65536 + bank % 256 * 65536) % 256) <<< 8) ∧
      (c3.P &&& W65816_ZF ≠ 0 ↔ mem ((c.PC + 1) % 65536 + bank % 256 * 65536) % 256 = 0) ∧
      c3.P &&& W65816_NF = 0 ∧
      c3.emulation = 0 ∧ c3.P &&& W65816_XF = 0 ∧
      c3.brk_flags = 0 ∧ c3.irq_pip = 0 ∧ c3.nmi_pip = 0 := by
  have hE : ¬ (c.emulation ≠ 0) := not_not.2 he
  obtain ⟨c1, t0, i1, pc1, a1, p1, s1, e1, b1, x1, y1⟩ := ldx_t0 c a bank rw hb hi hn
  obtain ⟨q1, n1⟩ := tick_pips_q _ _ _ _ _ _ _ _ _ t0 hi hn
  have r1 := host_run_step _ _ _ _ h (host_step_qread _ _ mem _ _ _ _ _ _ t0)
  rw [fin_index_id _ _ _ he hx] at x1
  rw [if_neg hE] at p1
  have hx1 : c1.P &&& W65816_XF = 0 := by rw [p1]; exact hx
  have he1 : c1.emulation = 0 := e1.trans he
  have hE1 : ¬ (c1.emulation ≠ 0) := not_not.2 he1
  obtain ⟨c2, t1, i2, pc2, a2, p2, s2, e2, b2, x2, y2⟩ :=
    ldx_t1_i16 c1 _ _ bank true true false rfl i1 (i8_false c1 he1 hx1)
  obtain ⟨q2, n2⟩ := tick_pips_q _ _ _ _ _ _ _ _ _ t1 q1 n1
  have r2 := host_run_step _ _ _ _ r1 (host_step_qread _ _ mem _ _ _ _ _ _ t1)
  rw [fin_index_id _ _ _ he1 hx1] at x2
  rw [if_neg hE1] at p2
  have hx2 : c2.P &&& W65816_XF = 0 := by rw [p2]; exact hx1
  have he2 : c2.emulation = 0 := e2.trans he1
  have hE2 : ¬ (c2.emulation ≠ 0) := not_not.2 he2
  obtain ⟨c3, t2, i3, pc3, a3, p3, s3, e3, b3, x3, y3⟩ := ldx_t2 c2 _ _ bank true true false rfl i2
  obtain ⟨q3, n3⟩ := tick_pips_q _ _ _ _ _ _ _ _ _ t2 q2 n2
  have r3 := host_run_step _ _ _ _ r2 (host_step_qread _ _ mem _ _ _ _ _ _ t2)
  rw [if_neg hE2] at p3
  have p3b : c3.P = ((c2.P &&& NOT32 (W65816_NF ||| W65816_ZF)) |||
      (if (c2.X &&& 0xFF) &&& 0xFFFF ≠ 0 then ((c2.X &&& 0xFF) >>> 8) &&& W65816_NF
        else W65816_ZF)) % 256 := by
    rw [p3]
    show ((c2.P &&& NOT32 (W65816_NF ||| W65816_ZF)) |||
      (if (((c2.X &&& 0xFF) ||| (((_ : Nat) &&& 0xFF) <<< 8)) &&& 0xFF) &&& 0xFFFF ≠ 0 then
        ((((c2.X &&& 0xFF) ||| (((_ : Nat) &&& 0xFF) <<< 8)) &&& 0xFF) >>> 8) &&& W65816_NF
        else W65816_ZF)) % 256 = _
    rw [low_of_hi]
  have hx3 : c3.P &&& W65816_XF = 0 := by rw [p3b]; exact nz16_XF _ _ hx2
  rw [fin_index_id _ _ _ he2 (by rw [← p3]; exact hx3)] at x3
  have hlo : c2.X &&& 0xFF = mem ((c.PC + 1) % 65536 + bank % 256 * 65536) % 256 := by
    rw [x2, x1, lo_of_or]
    simp only [and_FF, Nat.mod_mod]
  obtain ⟨hz, hnf⟩ := nz16_byte c2.P (c2.X &&& 0xFF) (by rw [and_FF]; omega)
  rw [pc2, pc1, pc_three, Nat.mod_mod] at r3
  refine ⟨c3, r3, ?_, ?_, ?_, ?_, e3.trans he2, hx3, b3.trans (b2.trans b1), q3, n3⟩
  · rw [pc3, pc2, pc1, pc_three]
  · rw [x3, x2, x1, pc1, pc_two]
    simp only [Nat.mod_mod]
    exact lda16_val _ _ _
  · rw [p3b, hz, hlo]
  · rw [p3b]; exact hnf

/-- LDY # under the host loop in native mode with 16-bit index registers (E = 0 and X flag
clear): three iterations, Y holds the 16-bit immediate, the interrupt state and the width of
the index registers are kept.  The flags come from `_NZ16(_Y(c))`, i.e. from the low byte of
Y alone: Z is set iff the low operand byte is zero and N is cleared. -/
theorem run_ldy16 (n : Nat) (s0 : Sys) (c : w65816_t) (mem : Mem) (a bank : Nat) (rw : Bool)
    (h : host_run n s0 = some (Sys.mk c (qpins a 0xA0 rw true true bank).word mem))
    (hb : c.brk_flags = 0) (hi : c.irq_pip = 0) (hn : c.nmi_pip = 0)
    (he : c.emulation = 0) (hx : c.P &&& W65816_XF = 0) :
    ∃ c3, host_run (n + 3) s0 = some (Sys.mk c3 (qpins ((c.PC + 3) % 65536)
        (mem ((c.PC + 3) % 65536 + bank % 256 * 65536) % 256) true true true bank).word mem) ∧
      c3.PC = (c.PC + 3) % 65536 ∧
      c3.Y = mem ((c.PC + 1) % 65536 + bank % 256 * 65536) % 256 |||
        ((mem ((c.PC + 2) % 65536 + bank % 256 * 65536) % 256) <<< 8) ∧
      (c3.P &&& W65816_ZF ≠ 0 ↔ mem ((c.PC + 1) % 65536 + bank % 256 * 65536) % 256 = 0) ∧
      c3.P &&& W65816_NF = 0 ∧
      c3.emulation = 0 ∧ c3.P &&& W65816_XF = 0 ∧
      c3.brk_flags = 0 ∧ c3.irq_pip = 0 ∧ c3.nmi_pip = 0 := by
  have hE : ¬ (c.emulation ≠ 0) := not_not.2 he
  obtain ⟨c1, t0, i1, pc1, a1, p1, s1, e1, b1, x1, y1⟩ := ldy_t0 c a bank rw hb hi hn
  obtain ⟨q1, n1⟩ := tick_pips_q _ _ _ _ _ _ _ _ _ t0 hi hn
  have r1 := host_run_step _ _ _ _ h (host_step_qread _ _ mem _ _ _ _ _ _ t0)
  rw [fin_index_id _ _ _ he hx] at y1
  rw [if_neg hE] at p1
  have hx1 : c1.P &&& W65816_XF = 0 := by rw [p1]; exact hx
  have he1 : c1.emulation = 0 := e1.trans he
  have hE1 : ¬ (c1.emulation ≠ 0) := not_not.2 he1
  obtain ⟨c2, t1, i2, pc2, a2, p2, s2, e2, b2, x2, y2⟩ :=
    ldy_t1_i16 c1 _ _ bank true true false rfl i1 (i8_false c1 he1 hx1)
  obtain ⟨q2, n2⟩ := tick_pips_q _ _ _ _ _ _ _ _ _ t1 q1 n1
  have r2 := host_run_step _ _ _ _ r1 (host_step_qread _ _ mem _ _ _ _ _ _ t1)
  rw [fin_index_id _ _ _ he1 hx1] at y2
  rw [if_neg hE1] at p2
  have hx2 : c2.P &&& W65816_XF = 0 := by rw [p2]; exact hx1
  have he2 : c2.emulation = 0 := e2.trans he1
  have hE2 : ¬ (c2.emulation ≠ 0) := not_not.2 he2
  obtain ⟨c3, t2, i3, pc3, a3, p3, s3, e3, b3, x3, y3⟩ := ldy_t2 c2 _ _ bank true true false rfl i2
  obtain ⟨q3, n3⟩ := tick_pips_q _ _ _ _ _ _ _ _ _ t2 q2 n2
  have r3 := host_run_step _ _ _ _ r2 (host_step_qread _ _ mem _ _ _ _ _ _ t2)
  rw [if_neg hE2] at p3
  have p3b : c3.P = ((c2.P &&& NOT32 (W65816_NF ||| W65816_ZF)) |||
      (if (c2.Y &&& 0xFF) &&& 0xFFFF ≠ 0 then ((c2.Y &&& 0xFF) >>> 8) &&& W65816_NF
        else W65816_ZF)) % 256 := by
    rw [p3]
    show ((c2.P &&& NOT32 (W65816_NF ||| W65816_ZF)) |||
      (if (((c2.Y &&& 0xFF) ||| (((_ : Nat) &&& 0xFF) <<< 8)) &&& 0xFF) &&& 0xFFFF ≠ 0 then
        ((((c2.Y &&& 0xFF) ||| (((_ : Nat) &&& 0xFF) <<< 8)) &&& 0xFF) >>> 8) &&& W65816_NF
        else W65816_ZF)) % 256 = _
    rw [low_of_hi]
  have hx3 : c3.P &&& W65816_XF = 0 := by rw [p3b]; exact nz16_XF _ _ hx2
  rw [fin_index_id _ _ _ he2 (by rw [← p3]; exact hx3)] at y3
  have hlo : c2.Y &&& 0xFF = mem ((c.PC + 1) % 65536 + bank % 256 * 65536) % 256 := by
    rw [y2, y1, lo_of_or]
    simp only [and_FF, Nat.mod_mod]
  obtain ⟨hz, hnf⟩ := nz16_byte c2.P (c2.Y &&& 0xFF) (by rw [and_FF]; omega)
  rw [pc2, pc1, pc_three, Nat.mod_mod] at r3
  refine ⟨c3, r3, ?_, ?_, ?_, ?_, e3.trans he2, hx3, b3.trans (b2.trans b1), q3, n3⟩
  · rw [pc3, pc2, pc1, pc_three]
  · rw [y3, y2, y1, pc1, pc_two]
    simp only [Nat.mod_mod]
    exact lda16_val _ _ _
  · rw [p3b, hz, hlo]
  · rw [p3b]; exact hnf

/-- C36 (what the code does): LDX # (0xA2) and LDY # (0xA0), fetched in native mode with 16-bit
index registers (E = 0, X flag clear) and no interrupt pending, complete in three iterations of
the host loop and load the 16-bit immediate into the register, but the flags are set by
`_NZ16(_X(c))` and `_NZ16(_Y(c))`, where `_X(c)` and `_Y(c)` are the low bytes: Z is set iff the
low byte of the immediate is zero and N is always cleared.  At the failing input, the program
CLC; XCE; REP #$30; LDX #$0100; LDY #$8000; LDA #$8000 at reset vector 0x8000: LDX #$0100
leaves X = 0x0100 with Z set, LDY #$8000 leaves Y = 0x8000 with Z set and N clear, and
LDA #$8000 leaves C = 0x8000 with Z clear and N set. -/
theorem ldx_ldy_imm16_flags (c : w65816_t) (mem : Mem) (a bank : Nat) (rw : Bool)
    (hb : c.brk_flags = 0) (hi : c.irq_pip = 0) (hn : c.nmi_pip = 0)
    (he : c.emulation = 0) (hx : c.P &&& W65816_XF = 0) :
    (∃ s3, host_run 3 (Sys.mk c (qpins a 0xA2 rw true true bank).word mem) = some s3 ∧
      sync_out s3.pins = true ∧ s3.cpu.PC = (c.PC + 3) % 65536 ∧
      s3.cpu.X = mem ((c.PC + 1) % 65536 + bank % 256 * 65536) % 256 |||
        ((mem ((c.PC + 2) % 65536 + bank % 256 * 65536) % 256) <<< 8) ∧
      (s3.cpu.P &&& W65816_ZF ≠ 0 ↔ mem ((c.PC + 1) % 65536 + bank % 256 * 65536) % 256 = 0) ∧
      s3.cpu.P &&& W65816_NF = 0) ∧
    (∃ s3, host_run 3 (Sys.mk c (qpins a 0xA0 rw true true bank).word mem) = some s3 ∧
      sync_out s3.pins = true ∧ s3.cpu.PC = (c.PC + 3) % 65536 ∧
      s3.cpu.Y = mem ((c.PC + 1) % 65536 + bank % 256 * 65536) % 256 |||
        ((mem ((c.PC + 2) % 65536 + bank % 256 * 65536) % 256) <<< 8) ∧
      (s3.cpu.P &&& W65816_ZF ≠ 0 ↔ mem ((c.PC + 1) % 65536 + bank % 256 * 65536) % 256 = 0) ∧
      s3.cpu.P &&& W65816_NF = 0) ∧
    ∃ s, host_run 14 (host_init false
        (fun a => if a = 0xFFFC then 0x00 else if a = 0xFFFD then 0x80 else
          if a = 0x8000 then 0x18 else if a = 0x8001 then 0xFB else
          if a = 0x8002 then 0xC2 else if a = 0x8003 then 0x30 else
          if a = 0x8004 then 0xA2 else if a = 0x8005 then 0x00 else
          if a = 0x8006 then 0x01 else if a = 0x8007 then 0xA0 else
          if a = 0x8008 then 0x00 else if a = 0x8009 then 0x80 else
          if a = 0x800A then 0xA9 else if a = 0x800B then 0x00 else
          if a = 0x800C then 0x80 else 0xEA)) = some s ∧
      sync_out s.pins = true ∧ W65816_GET_ADDR s.pins = 0x8004 ∧ _GD s.pins = 0xA2 ∧
      s.cpu.emulation = 0 ∧ s.cpu.P &&& W65816_XF = 0 ∧ s.cpu.P &&& W65816_MF = 0 ∧
      (∃ s3, host_run 3 s = some s3 ∧ sync_out s3.pins = true ∧ _GD s3.pins = 0xA0 ∧
        s3.cpu.X = 0x0100 ∧ s3.cpu.P &&& W65816_ZF ≠ 0 ∧ s3.cpu.P &&& W65816_NF = 0) ∧
      (∃ s6, host_run 6 s = some s6 ∧ sync_out s6.pins = true ∧ _GD s6.pins = 0xA9 ∧
        s6.cpu.Y = 0x8000 ∧ s6.cpu.P &&& W65816_ZF ≠ 0 ∧ s6.cpu.P &&& W65816_NF = 0) ∧
      ∃ s9, host_run 9 s = some s9 ∧ sync_out s9.pins = true ∧
        s9.cpu.C = 0x8000 ∧ s9.cpu.P &&& W65816_ZF = 0 ∧ s9.cpu.P &&& W65816_NF ≠ 0 := by
  refine ⟨?_, ?_, ?_⟩
  · obtain ⟨c3, r3, pc3, x3, z3, n3, -⟩ := run_ldx16 0 _ c mem a bank rw rfl hb hi hn he hx
    exact ⟨_, r3, qpins_sync _ _ _ _ _ _, pc3, x3, z3, n3⟩
  · obtain ⟨c3, r3, pc3, y3, z3, n3, -⟩ := run_ldy16 0 _ c mem a bank rw rfl hb hi hn he hx
    exact ⟨_, r3, qpins_sync _ _ _ _ _ _, pc3, y3, z3, n3⟩
  · refine ⟨(host_run 14 _).get (by decide), (Option.some_get _).symm, by decide, by decide,
      by decide, by decide, by decide, by decide, ?_, ?_, ?_⟩
    · exact ⟨(host_run 3 _).get (by decide), (Option.some_get _).symm, by decide, by decide,
        by decide, by decide, by decide⟩
    · exact ⟨(host_run 6 _).get (by decide), (Option.some_get _).symm, by decide, by decide,
        by decide, by decide, by decide⟩
    · exact ⟨(host_run 9 _).get (by decide), (Option.some_get _).symm, by decide, by decide,
        by decide, by decide⟩

theorem ldx_ldy_imm16_flags_witness :
    ({ (w65816_init false).1 with emulation := 0, P := 0x01, PC := 0x8000 } : w65816_t).brk_flags = 0 ∧
    ({ (w65816_init false).1 with emulation := 0, P := 0x01, PC := 0x8000 } : w65816_t).emulation = 0 ∧
    ({ (w65816_init false).1 with emulation := 0, P := 0x01, PC := 0x8000 } : w65816_t).P &&&
      W65816_XF = 0 ∧
    ∃ s3, host_run 3 (Sys.mk { (w65816_init false).1 with emulation := 0, P := 0x01, PC := 0x8000 }
        (qpins 0x8000 0xA2 true true true 0).word
        (fun x => if x = 0x8001 then 0x00 else if x = 0x8002 then 0x80 else 0xEA)) = some s3 ∧
      s3.cpu.X = 0x8000 ∧ s3.cpu.P &&& W65816_ZF ≠ 0 ∧ s3.cpu.P &&& W65816_NF = 0 :=
  ⟨rfl, rfl, by decide,
    match (ldx_ldy_imm16_flags { (w65816_init false).1 with emulation := 0, P := 0x01, PC := 0x8000 }
      (fun x => if x = 0x8001 then 0x00 else if x = 0x8002 then 0x80 else 0xEA)
      0x8000 0 true (by decide) (by decide) (by decide) (by decide) (by decide)).1 with
    | ⟨s3, h3, _, _, hX, hZ, hN⟩ => ⟨s3, h3, hX.trans (by decide), hZ.2 (by decide), hN⟩⟩

/-! ## LDA a,x under the host loop -/

theorem operand_val (l h : Nat) :
    ((l % 256) ||| ((h % 256) <<< 8)) % 65536 = l % 256 + h % 256 * 256 := by
  have e := or_eq_add 8 (h % 256 * 2 ^ 8) (l % 256) (by simp) (by omega)
  rw [Nat.shiftLeft_eq, Nat.or_comm, e]
  omega

theorem index_same_page (ad xl : Nat) (had : ad < 65536) (h : ad % 256 + xl < 256) :
    (ad &&& 0xFF00) ||| ((ad + xl) &&& 0xFF) = ad + xl := by
  rw [and_FF00, and_FF, or_hi]
  omega

theorem index_cross_page (ad xl : Nat) (had : ad < 65536) (hx : xl < 256)
    (h : 256 ≤ ad % 256 + xl) :
    (ad &&& 0xFF00) ||| ((ad + xl) &&& 0xFF) = ad + xl - 256 := by
  rw [and_FF00, and_FF, or_hi]
  omega

/-- LDA a,x under the host loop with an 8-bit accumulator when the low operand byte plus the
low byte of X stays below 0x100: four iterations.  The third one reads the byte at
operand + (X & 0xFF) without VDA, the fourth one loads it into A and returns the next opcode
fetch. -/
theorem run_ldax_same (n : Nat) (s0 : Sys) (c : w65816_t) (mem : Mem) (a bank : Nat) (rw : Bool)
    (h : host_run n s0 = some (Sys.mk c (qpins a 0xBD rw true true bank).word mem))
    (hb : c.brk_flags = 0) (hi : c.irq_pip = 0) (hn : c.nmi_pip = 0) (ha : _a8 c = true)
    (hpg : mem ((c.PC + 1) % 65536 + bank % 256 * 65536) % 256 + c.X % 256 < 256) :
    ∃ c1 c2 c3 c4,
      host_run (n + 1) s0 = some (Sys.mk c1 (qpins ((c.PC + 1) % 65536)
        (mem ((c.PC + 1) % 65536 + bank % 256 * 65536) % 256) true true false bank).word mem) ∧
      host_run (n + 2) s0 = some (Sys.mk c2 (qpins ((c.PC + 2) % 65536)
        (mem ((c.PC + 2) % 65536 + bank % 256 * 65536) % 256) true true false bank).word mem) ∧
      host_run (n + 3) s0 = some (Sys.mk c3
        (qpins (mem ((c.PC + 1) % 65536 + bank % 256 * 65536) % 256 +
            mem ((c.PC + 2) % 65536 + bank % 256 * 65536) % 256 * 256 + c.X % 256)
          (mem ((mem ((c.PC + 1) % 65536 + bank % 256 * 65536) % 256 +
            mem ((c.PC + 2) % 65536 + bank % 256 * 65536) % 256 * 256 + c.X % 256) % 65536 +
            bank % 256 * 65536) % 256) true false false bank).word mem) ∧
      host_run (n + 4) s0 = some (Sys.mk c4 (qpins ((c.PC + 3) % 65536)
        (mem ((c.PC + 3) % 65536 + bank % 256 * 65536) % 256) true true true bank).word mem) ∧
      c4.PC = (c.PC + 3) % 65536 ∧
      _A c4 = mem ((mem ((c.PC + 1) % 65536 + bank % 256 * 65536) % 256 +
            mem ((c.PC + 2) % 65536 + bank % 256 * 65536) % 256 * 256 + c.X % 256) % 65536 +
            bank % 256 * 65536) % 256 ∧
      c4.brk_flags = 0 ∧ c4.irq_pip = 0 ∧ c4.nmi_pip = 0 := by
  obtain ⟨c1, t0, i1, pc1, a1, p1, s1, e1, b1, x1⟩ := ldax_t0 c a bank rw hb hi hn
  obtain ⟨q1, n1⟩ := tick_pips_q _ _ _ _ _ _ _ _ _ t0 hi hn
  have r1 := host_run_step _ _ _ _ h (host_step_qread _ _ mem _ _ _ _ _ _ t0)
  rw [Nat.mod_mod] at r1
  have ha1 : _a8 c1 = true := (a8_fin c c1 e1 p1).trans ha
  obtain ⟨c2, t1, i2, pc2, a2, p2, s2, e2, b2, d2, x2⟩ :=
    ldax_t1 c1 _ _ bank true true false rfl i1
  obtain ⟨q2, n2⟩ := tick_pips_q _ _ _ _ _ _ _ _ _ t1 q1 n1
  have r2 := host_run_step _ _ _ _ r1 (host_step_qread _ _ mem _ _ _ _ _ _ t1)
  rw [pc1, pc_two] at r2 t1
  rw [Nat.mod_mod] at r2
  have ha2 : _a8 c2 = true := (a8_fin c1 c2 e2 p2).trans ha1
  have hX2 : c2.X &&& 0xFF = c.X % 256 := by rw [x2, x1, and_FF]
  have hAD : (c2.AD ||| ((mem ((c.PC + 2) % 65536 + bank % 256 * 65536) % 256 % 256) <<< 8)) % 65536 =
      mem ((c.PC + 1) % 65536 + bank % 256 * 65536) % 256 +
        mem ((c.PC + 2) % 65536 + bank % 256 * 65536) % 256 * 256 := by
    rw [d2, operand_val]
    simp only [Nat.mod_mod]
  have hpg2 : ((c2.AD ||| ((mem ((c.PC + 2) % 65536 + bank % 256 * 65536) % 256 % 256) <<< 8)) % 65536) % 256 +
      (c2.X &&& 0xFF) < 256 := by
    rw [hAD, hX2]
    omega
  obtain ⟨c3, t2, i3, pc3, a3, p3, s3, e3, b3, d3, x3⟩ :=
    ldax_t2_same c2 _ _ bank true true false rfl i2 hpg2
  obtain ⟨q3, n3⟩ := tick_pips_q _ _ _ _ _ _ _ _ _ t2 q2 n2
  rw [hAD, hX2, index_same_page _ _ (by omega) (by omega)] at t2
  have r3 := host_run_step _ _ _ _ r2 (host_step_qread _ _ mem _ _ _ _ _ _ t2)
  have ha3 : _a8 c3 = true := (a8_fin c2 c3 e3 p3).trans ha2
  obtain ⟨c4, t3, i4, pc4, a4, p4, s4, e4, b4⟩ :=
    ldax_t4_a8 c3 _ _ bank true false false rfl i3 ha3
  obtain ⟨q4, n4⟩ := tick_pips_q _ _ _ _ _ _ _ _ _ t3 q3 n3
  have r4 := host_run_step _ _ _ _ r3 (host_step_qread _ _ mem _ _ _ _ _ _ t3)
  have hpc : c3.PC = (c.PC + 3) % 65536 := by rw [pc3, pc2, pc1, pc_three]
  rw [hpc, Nat.mod_mod] at r4
  refine ⟨c1, c2, c3, c4, r1, r2, r3, r4, pc4.trans hpc, ?_,
    b4.trans (b3.trans (b2.trans b1)), q4, n4⟩
  rw [_A, a4]
  simp only [Nat.mod_mod]
  exact lda8_A _ _

/-- LDA a,x under the host loop with an 8-bit accumulator when the low operand byte plus the
low byte of X reaches 0x100: five iterations.  The third one addresses the page of the operand
(a read that is not used), the fourth one reads the byte at (operand + (X & 0xFF)) mod 2^16 with
VDA, the fifth one loads it into A and returns the next opcode fetch. -/
theorem run_ldax_cross (n : Nat) (s0 : Sys) (c : w65816_t) (mem : Mem) (a bank : Nat) (rw : Bool)
    (h : host_run n s0 = some (Sys.mk c (qpins a 0xBD rw true true bank).word mem))
    (hb : c.brk_flags = 0) (hi : c.irq_pip = 0) (hn : c.nmi_pip = 0) (ha : _a8 c = true)
    (hpg : 256 ≤ mem ((c.PC + 1) % 65536 + bank % 256 * 65536) % 256 + c.X % 256) :
    ∃ c1 c2 c3 c4 c5 d3,
      host_run (n + 1) s0 = some (Sys.mk c1 (qpins ((c.PC + 1) % 65536)
        (mem ((c.PC + 1) % 65536 + bank % 256 * 65536) % 256) true true false bank).word mem) ∧
      host_run (n + 2) s0 = some (Sys.mk c2 (qpins ((c.PC + 2) % 65536)
        (mem ((c.PC + 2) % 65536 + bank % 256 * 65536) % 256) true true false bank).word mem) ∧
      host_run (n + 3) s0 = some (Sys.mk c3
        (qpins (mem ((c.PC + 1) % 65536 + bank % 256 * 65536) % 256 +
            mem ((c.PC + 2) % 65536 + bank % 256 * 65536) % 256 * 256 + c.X % 256 - 256)
          d3 true false false bank).word mem) ∧
      host_run (n + 4) s0 = some (Sys.mk c4
        (qpins (mem ((c.PC + 1) % 65536 + bank % 256 * 65536) % 256 +
            mem ((c.PC + 2) % 65536 + bank % 256 * 65536) % 256 * 256 + c.X % 256)
          (mem ((mem ((c.PC + 1) % 65536 + bank % 256 * 65536) % 256 +
            mem ((c.PC + 2) % 65536 + bank % 256 * 65536) % 256 * 256 + c.X % 256) % 65536 +
            bank % 256 * 65536) % 256) true false true bank).word mem) ∧
      host_run (n + 5) s0 = some (Sys.mk c5 (qpins ((c.PC + 3) % 65536)
        (mem ((c.PC + 3) % 65536 + bank % 256 * 65536) % 256) true true true bank).word mem) ∧
      c5.PC = (c.PC + 3) % 65536 ∧
      _A c5 = mem ((mem ((c.PC + 1) % 65536 + bank % 256 * 65536) % 256 +
            mem ((c.PC + 2) % 65536 + bank % 256 * 65536) % 256 * 256 + c.X % 256) % 65536 +
            bank % 256 * 65536) % 256 ∧
      c5.brk_flags = 0 ∧ c5.irq_pip = 0 ∧ c5.nmi_pip = 0 := by
  obtain ⟨c1, t0, i1, pc1, a1, p1, s1, e1, b1, x1⟩ := ldax_t0 c a bank rw hb hi hn
  obtain ⟨q1, n1⟩ := tick_pips_q _ _ _ _ _ _ _ _ _ t0 hi hn
  have r1 := host_run_step _ _ _ _ h (host_step_qread _ _ mem _ _ _ _ _ _ t0)
  rw [Nat.mod_mod] at r1
  have ha1 : _a8 c1 = true := (a8_fin c c1 e1 p1).trans ha
  obtain ⟨c2, t1, i2, pc2, a2, p2, s2, e2, b2, d2, x2⟩ :=
    ldax_t1 c1 _ _ bank true true false rfl i1
  obtain ⟨q2, n2⟩ := tick_pips_q _ _ _ _ _ _ _ _ _ t1 q1 n1
  have r2 := host_run_step _ _ _ _ r1 (host_step_qread _ _ mem _ _ _ _ _ _ t1)
  rw [pc1, pc_two] at r2 t1
  rw [Nat.mod_mod] at r2
  have ha2 : _a8 c2 = true := (a8_fin c1 c2 e2 p2).trans ha1
  have hX2 : c2.X &&& 0xFF = c.X % 256 := by rw [x2, x1, and_FF]
  have hAD : (c2.AD ||| ((mem ((c.PC + 2) % 65536 + bank % 256 * 65536) % 256 % 256) <<< 8)) % 65536 =
      mem ((c.PC + 1) % 65536 + bank % 256 * 65536) % 256 +
        mem ((c.PC + 2) % 65536 + bank % 256 * 65536) % 256 * 256 := by
    rw [d2, operand_val]
    simp only [Nat.mod_mod]
  have hpg2 : 256 ≤ ((c2.AD ||| ((mem ((c.PC + 2) % 65536 + bank % 256 * 65536) % 256 % 256) <<< 8)) % 65536) % 256 +
      (c2.X &&& 0xFF) := by
    rw [hAD, hX2]
    omega
  obtain ⟨c3, t2, i3, pc3, a3, p3, s3, e3, b3, d3, x3⟩ :=
    ldax_t2_cross c2 _ _ bank true true false rfl i2 hpg2
  obtain ⟨q3, n3⟩ := tick_pips_q _ _ _ _ _ _ _ _ _ t2 q2 n2
  rw [hAD] at d3
  rw [hAD, hX2, index_cross_page _ _ (by omega) (by omega) (by omega)] at t2
  have r3 := host_run_step _ _ _ _ r2 (host_step_qread _ _ mem _ _ _ _ _ _ t2)
  have ha3 : _a8 c3 = true := (a8_fin c2 c3 e3 p3).trans ha2
  obtain ⟨c4, t3, i4, pc4, a4, p4, s4, e4, b4, d4, x4⟩ :=
    ldax_t3 c3 _ _ bank true false false rfl i3
  obtain ⟨q4, n4⟩ := tick_pips_q _ _ _ _ _ _ _ _ _ t3 q3 n3
  rw [d3, x3, hX2] at t3
  have r4 := host_run_step _ _ _ _ r3 (host_step_qread _ _ mem _ _ _ _ _ _ t3)
  have ha4 : _a8 c4 = true := (a8_fin c3 c4 e4 p4).trans ha3
  obtain ⟨c5, t4, i5, pc5, a5, p5, s5, e5, b5⟩ :=
    ldax_t4_a8 c4 _ _ bank true false true rfl i4 ha4
  obtain ⟨q5, n5⟩ := tick_pips_q _ _ _ _ _ _ _ _ _ t4 q4 n4
  have r5 := host_run_step _ _ _ _ r4 (host_step_qread _ _ mem _ _ _ _ _ _ t4)
  have hpc : c4.PC = (c.PC + 3) % 65536 := by rw [pc4, pc3, pc2, pc1, pc_three]
  rw [hpc, Nat.mod_mod] at r5
  refine ⟨c1, c2, c3, c4, c5, _, r1, r2, r3, r4, r5, pc5.trans hpc, ?_,
    b5.trans (b4.trans (b3.trans (b2.trans b1))), q5, n5⟩
  rw [_A, a5]
  simp only [Nat.mod_mod]
  exact lda8_A _ _

theorem qpins_no_VDA (a d bank : Nat) (rw vpa : Bool) :
    (qpins a d rw vpa false bank).word &&& W65816_VDA = 0 := by
  simp only [W65816_VDA, Nat.reduceShiftLeft, test_VDA_word, qpins]
  decide

/-- C35 (counterexample): the host loop runs from `w65816_init` with reset vector 0x8000 and
the program CLC; XCE; REP #$10; LDX #$0100; LDA $1000,X (bytes 18 FB C2 10 A2 00 01 BD 00 10),
mem[0x1000] = 0x11 and mem[0x1100] = 0x22.  After 17 iterations the opcode of LDA $1000,X is
fetched in native mode with an 8-bit accumulator and 16-bit index registers, X = 0x0100.  The
data read of the instruction goes to 0x1000, not to (0x1000 + X) mod 2^16 = 0x1100: A becomes
0x11, not 0x22. -/
theorem lda_abs_x_ignores_high_byte_of_X :
    ∃ s, host_run 17 (host_init false
        (fun a => if a = 0xFFFC then 0x00 else if a = 0xFFFD then 0x80 else
          if a = 0x8000 then 0x18 else if a = 0x8001 then 0xFB else
          if a = 0x8002 then 0xC2 else if a = 0x8003 then 0x10 else
          if a = 0x8004 then 0xA2 else if a = 0x8005 then 0x00 else
          if a = 0x8006 then 0x01 else if a = 0x8007 then 0xBD else
          if a = 0x8008 then 0x00 else if a = 0x8009 then 0x10 else
          if a = 0x1000 then 0x11 else if a = 0x1100 then 0x22 else 0xEA)) = some s ∧
      sync_out s.pins = true ∧ W65816_GET_ADDR s.pins = 0x8007 ∧ _GD s.pins = 0xBD ∧
      _a8 s.cpu = true ∧ _i8 s.cpu = false ∧ s.cpu.emulation = 0 ∧ s.cpu.X = 0x0100 ∧
      (∃ r, host_tick 2 s = some r ∧ sync_out r.2 = false ∧ r.2 &&& W65816_RW ≠ 0 ∧
        W65816_GET_ADDR r.2 = 0x1000 ∧ W65816_GET_ADDR r.2 ≠ (0x1000 + r.1.X) % 65536) ∧
      ∃ s4, host_run 4 s = some s4 ∧ sync_out s4.pins = true ∧ W65816_GET_ADDR s4.pins = 0x800A ∧
        _A s4.cpu = 0x11 ∧ s4.cpu.X = 0x0100 ∧ s4.mem 0x1100 = 0x22 := by
  refine ⟨(host_run 17 _).get (by decide), (Option.some_get _).symm, by decide, by decide,
    by decide, by decide, by decide, by decide, by decide, ?_, ?_⟩
  · exact ⟨(host_tick 2 _).get (by decide), (Option.some_get _).symm, by decide, by decide,
      by decide, by decide⟩
  · exact ⟨(host_run 4 _).get (by decide), (Option.some_get _).symm, by decide, by decide,
      by decide, by decide, by decide⟩

/-- C35 (amended): for LDA a,x (0xBD) fetched with an 8-bit accumulator and no interrupt
pending, for every value of X, the index added to the operand is the low byte of X.  When
(operand & 0xFF) + (X & 0xFF) < 0x100 the instruction takes four ticks: the first three return no
opcode fetch, the third one returns the read address operand + (X & 0xFF), and the fourth one
loads A with the byte read there and returns the next opcode fetch.  When the sum reaches 0x100
the instruction takes five ticks: the first four return no opcode fetch, the fourth one returns
the read address (operand + (X & 0xFF)) mod 2^16 with VDA, and the fifth one loads A with the
byte read there and returns the next opcode fetch.  The address is in the bank on the pins. -/
theorem lda_abs_x_low_index (c : w65816_t) (mem : Mem) (a bank : Nat) (rw : Bool)
    (hb : c.brk_flags = 0) (hi : c.irq_pip = 0) (hn : c.nmi_pip = 0) (ha : _a8 c = true) :
    (mem ((c.PC + 1) % 65536 + bank % 256 * 65536) % 256 + c.X % 256 < 256 →
      ∃ s1 s2 s3 s4,
        host_run 1 (Sys.mk c (qpins a 0xBD rw true true bank).word mem) = some s1 ∧
        sync_out s1.pins = false ∧
        host_run 2 (Sys.mk c (qpins a 0xBD rw true true bank).word mem) = some s2 ∧
        sync_out s2.pins = false ∧
        host_run 3 (Sys.mk c (qpins a 0xBD rw true true bank).word mem) = some s3 ∧
        sync_out s3.pins = false ∧ s3.pins &&& W65816_RW ≠ 0 ∧
        W65816_GET_ADDR s3.pins =
          (mem ((c.PC + 1) % 65536 + bank % 256 * 65536) % 256 +
            mem ((c.PC + 2) % 65536 + bank % 256 * 65536) % 256 * 256 + c.X % 256) % 65536 +
            bank % 256 * 65536 ∧
        host_run 4 (Sys.mk c (qpins a 0xBD rw true true bank).word mem) = some s4 ∧
        sync_out s4.pins = true ∧ s4.cpu.PC = (c.PC + 3) % 65536 ∧
        _A s4.cpu = mem ((mem ((c.PC + 1) % 65536 + bank % 256 * 65536) % 256 +
            mem ((c.PC + 2) % 65536 + bank % 256 * 65536) % 256 * 256 + c.X % 256) % 65536 +
            bank % 256 * 65536) % 256 ∧
        s4.mem = mem) ∧
    (256 ≤ mem ((c.PC + 1) % 65536 + bank % 256 * 65536) % 256 + c.X % 256 →
      ∃ s1 s2 s3 s4 s5,
        host_run 1 (Sys.mk c (qpins a 0xBD rw true true bank).word mem) = some s1 ∧
        sync_out s1.pins = false ∧
        host_run 2 (Sys.mk c (qpins a 0xBD rw true true bank).word mem) = some s2 ∧
        sync_out s2.pins = false ∧
        host_run 3 (Sys.mk c (qpins a 0xBD rw true true bank).word mem) = some s3 ∧
        sync_out s3.pins = false ∧ s3.pins &&& W65816_VDA = 0 ∧
        host_run 4 (Sys.mk c (qpins a 0xBD rw true true bank).word mem) = some s4 ∧
        sync_out s4.pins = false ∧ s4.pins &&& W65816_VDA ≠ 0 ∧ s4.pins &&& W65816_RW ≠ 0 ∧
        W65816_GET_ADDR s4.pins =
          (mem ((c.PC + 1) % 65536 + bank % 256 * 65536) % 256 +
            mem ((c.PC + 2) % 65536 + bank % 256 * 65536) % 256 * 256 + c.X % 256) % 65536 +
            bank % 256 * 65536 ∧
        host_run 5 (Sys.mk c (qpins a 0xBD rw true true bank).word mem) = some s5 ∧
        sync_out s5.pins = true ∧ s5.cpu.PC = (c.PC + 3) % 65536 ∧
        _A s5.cpu = mem ((mem ((c.PC + 1) % 65536 + bank % 256 * 65536) % 256 +
            mem ((c.PC + 2) % 65536 + bank % 256 * 65536) % 256 * 256 + c.X % 256) % 65536 +
            bank % 256 * 65536) % 256 ∧
        s5.mem = mem) := by
  refine ⟨?_, ?_⟩
  · intro hpg
    obtain ⟨c1, c2, c3, c4, r1, r2, r3, r4, pc4, a4, -⟩ :=
      run_ldax_same 0 _ c mem a bank rw rfl hb hi hn ha hpg
    exact ⟨_, _, _, _, r1, qpins_sync _ _ _ _ _ _, r2, qpins_sync _ _ _ _ _ _, r3,
      qpins_sync _ _ _ _ _ _, qpins_read _ _ _ _ _, qpins_addr _ _ _ _ _ _, r4,
      qpins_sync _ _ _ _ _ _, pc4, a4, rfl⟩
  · intro hpg
    obtain ⟨c1, c2, c3, c4, c5, d3, r1, r2, r3, r4, r5, pc5, a5, -⟩ :=
      run_ldax_cross 0 _ c mem a bank rw rfl hb hi hn ha hpg
    exact ⟨_, _, _, _, _, r1, qpins_sync _ _ _ _ _ _, r2, qpins_sync _ _ _ _ _ _, r3,
      qpins_sync _ _ _ _ _ _, qpins_no_VDA _ _ _ _ _, r4, qpins_sync _ _ _ _ _ _,
      qpins_VDA _ _ _ _ _, qpins_read _ _ _ _ _, qpins_addr _ _ _ _ _ _, r5,
      qpins_sync _ _ _ _ _ _, pc5, a5, rfl⟩

theorem lda_abs_x_low_index_witness :
    ({ (w65816_init false).1 with emulation := 0, P := 0x21, X := 0x0104, PC := 0x8000 } : w65816_t).brk_flags = 0 ∧
    _a8 { (w65816_init false).1 with emulation := 0, P := 0x21, X := 0x0104, PC := 0x8000 } = true ∧
    _i8 { (w65816_init false).1 with emulation := 0, P := 0x21, X := 0x0104, PC := 0x8000 } = false ∧
    ∃ s3 s4,
      host_run 3 (Sys.mk { (w65816_init false).1 with emulation := 0, P := 0x21, X := 0x0104, PC := 0x8000 }
        (qpins 0x8000 0xBD true true true 0).word
        (fun x => if x = 0x8001 then 0x10 else if x = 0x8002 then 0x20 else if x = 0x2014 then 0x77 else 0xEA)) = some s3 ∧
      W65816_GET_ADDR s3.pins = 0x2014 ∧
      host_run 4 (Sys.mk { (w65816_init false).1 with emulation := 0, P := 0x21, X := 0x0104, PC := 0x8000 }
        (qpins 0x8000 0xBD true true true 0).word
        (fun x => if x = 0x8001 then 0x10 else if x = 0x8002 then 0x20 else if x = 0x2014 then 0x77 else 0xEA)) = some s4 ∧
      sync_out s4.pins = true ∧ _A s4.cpu = 0x77 :=
  ⟨rfl, by decide, by decide,
    match (lda_abs_x_low_index { (w65816_init false).1 with emulation := 0, P := 0x21, X := 0x0104, PC := 0x8000 }
      (fun x => if x = 0x8001 then 0x10 else if x = 0x8002 then 0x20 else if x = 0x2014 then 0x77 else 0xEA)
      0x8000 0 true (by decide) (by decide) (by decide) (by decide)).1 (by decide) with
    | ⟨_, _, s3, s4, _, _, _, _, h3, _, _, hA, h4, hs, _, hv, _⟩ =>
      ⟨s3, s4, h3, hA.trans (by decide), h4, hs, hv.trans (by decide)⟩⟩

/-! ## JSR a and RTS under the host loop -/

theorem stack_addr (x : Nat) : (0x0100 ||| (x % 256)) % 0x10000 = 256 + x % 256 := by
  rw [or_0100]
  omega

theorem stack_mod (x : Nat) : (256 + x % 256) % 65536 = 256 + x % 256 := by omega

theorem S_low_push (e s : Nat) :
    (if e ≠ 0 then 0x0100 ||| (((s &&& 0xFF00) ||| (((s &&& 0xFF) + 255) &&& 0xFF)) &&& 0xFF)
      else ((s &&& 0xFF00) ||| (((s &&& 0xFF) + 255) &&& 0xFF))) &&& 0xFF =
      ((s &&& 0xFF) + 255) % 256 := by
  rw [fin_S_low, low_or _ _ (high_low _), and_FF]

theorem S_low_pull (e s : Nat) :
    (if e ≠ 0 then 0x0100 ||| (((s &&& 0xFF00) ||| (((s &&& 0xFF) + 1) &&& 0xFF)) &&& 0xFF)
      else ((s &&& 0xFF00) ||| (((s &&& 0xFF) + 1) &&& 0xFF))) &&& 0xFF =
      ((s &&& 0xFF) + 1) % 256 := by
  rw [fin_S_low, low_or _ _ (high_low _), and_FF]

theorem target_val (h l : Nat) :
    (((h % 256) <<< 8) ||| (l % 256)) % 65536 = l % 256 + h % 256 * 256 := by
  rw [Nat.or_comm]
  exact operand_val l h

/-- JSR a under the host loop: six iterations.  The low target byte is read at PC + 1, the high
and the low byte of PC + 2 are written to the stack page at the low byte of S and below it, the
high target byte is then read at PC + 2 and the sixth tick returns the opcode fetch at the
target. -/
theorem run_jsr (n : Nat) (s0 : Sys) (c : w65816_t) (mem : Mem) (a bank : Nat) (rw : Bool)
    (h : host_run n s0 = some (Sys.mk c (qpins a 0x20 rw true true bank).word mem))
    (hb : c.brk_flags = 0) (hi : c.irq_pip = 0) (hn : c.nmi_pip = 0)
    (m1 m2 : Mem) (tgt : Nat)
    (hm1 : m1 = fun x => if x = 256 + c.S % 256 + bank % 256 * 65536
      then (c.PC + 2) % 65536 / 256 % 256 else mem x)
    (hm2 : m2 = fun x => if x = 256 + (c.S % 256 + 255) % 256 + bank % 256 * 65536
      then (c.PC + 2) % 65536 % 256 else m1 x)
    (ht : tgt = mem ((c.PC + 1) % 65536 + bank % 256 * 65536) % 256 +
      m2 ((c.PC + 2) % 65536 + bank % 256 * 65536) % 256 * 256) :
    ∃ c1 c2 c3 c4 c5 c6 d1 d2 d5,
      host_run (n + 1) s0 = some (Sys.mk c1 (qpins ((c.PC + 1) % 65536) d1 true true false
        bank).word mem) ∧
      host_run (n + 2) s0 = some (Sys.mk c2 (qpins (256 + c.S % 256) d2 true false false
        bank).word mem) ∧
      host_run (n + 3) s0 = some (Sys.mk c3 (qpins (256 + c.S % 256) ((c.PC + 2) % 65536 / 256)
        false false true bank).word m1) ∧
      host_run (n + 4) s0 = some (Sys.mk c4 (qpins (256 + (c.S % 256 + 255) % 256)
        ((c.PC + 2) % 65536) false false true bank).word m2) ∧
      host_run (n + 5) s0 = some (Sys.mk c5 (qpins ((c.PC + 2) % 65536) d5 true true false
        bank).word m2) ∧
      host_run (n + 6) s0 = some (Sys.mk c6 (qpins tgt
        (m2 (tgt % 65536 + bank % 256 * 65536) % 256) true true true bank).word m2) ∧
      c6.PC = tgt ∧ c6.S &&& 0xFF = (c.S % 256 + 254) % 256 ∧
      c6.brk_flags = 0 ∧ c6.irq_pip = 0 ∧ c6.nmi_pip = 0 := by
  obtain ⟨c1, t0, i1, pc1, a1, p1, s1, e1, b1⟩ := jsr_t0 c a bank rw hb hi hn
  obtain ⟨q1, n1⟩ := tick_pips_q _ _ _ _ _ _ _ _ _ t0 hi hn
  have r1 := host_run_step _ _ _ _ h (host_step_qread _ _ mem _ _ _ _ _ _ t0)
  rw [Nat.mod_mod] at r1
  have l1 : _S c1 = c.S % 256 := by rw [_S, s1, fin_S_low, and_FF]
  rw [pc_two] at pc1
  -- sub-cycle 1
  obtain ⟨c2, t1, i2, pc2, a2, p2, s2, e2, b2, d2⟩ := jsr_t1 c1 _ _ bank true true false rfl i1
  obtain ⟨q2, n2⟩ := tick_pips_q _ _ _ _ _ _ _ _ _ t1 q1 n1
  rw [l1, or_0100] at t1
  have r2 := host_run_step _ _ _ _ r1 (host_step_qread _ _ mem _ _ _ _ _ _ t1)
  have l2 : _S c2 = c.S % 256 := by rw [_S, s2, fin_S_low, ← _S, l1]
  rw [Nat.mod_mod] at d2
  -- sub-cycle 2: push the high byte
  obtain ⟨c3, t2, i3, pc3, a3, p3, s3, e3, b3, d3⟩ := jsr_t2 c2 _ _ bank true false false rfl i2
  obtain ⟨q3, n3⟩ := tick_pips_q _ _ _ _ _ _ _ _ _ t2 q2 n2
  have l3 : _S c3 = (c.S % 256 + 255) % 256 := by
    rw [_S, s3]
    show (if c2.emulation ≠ 0 then 0x0100 |||
        (((c2.S &&& 0xFF00) ||| (((c2.S &&& 0xFF) + 255) &&& 0xFF)) &&& 0xFF)
      else ((c2.S &&& 0xFF00) ||| (((c2.S &&& 0xFF) + 255) &&& 0xFF))) &&& 0xFF = _
    rw [S_low_push, ← _S, l2]
  rw [l2, or_0100, pc2, pc1, Nat.shiftRight_eq_div_pow, show (2 : Nat) ^ 8 = 256 from rfl] at t2
  have r3 := host_run_step _ _ _ _ r2 (host_step_qwrite _ _ mem _ _ _ _ _ _ t2)
  rw [stack_mod, ← hm1] at r3
  -- sub-cycle 3: push the low byte
  obtain ⟨c4, t3, i4, pc4, a4, p4, s4, e4, b4, d4⟩ := jsr_t3 c3 _ _ bank false false true rfl i3
  obtain ⟨q4, n4⟩ := tick_pips_q _ _ _ _ _ _ _ _ _ t3 q3 n3
  have l4 : _S c4 = (c.S % 256 + 254) % 256 := by
    rw [_S, s4]
    show (if c3.emulation ≠ 0 then 0x0100 |||
        (((c3.S &&& 0xFF00) ||| (((c3.S &&& 0xFF) + 255) &&& 0xFF)) &&& 0xFF)
      else ((c3.S &&& 0xFF00) ||| (((c3.S &&& 0xFF) + 255) &&& 0xFF))) &&& 0xFF = _
    rw [S_low_push, ← _S, l3]
    omega
  rw [l3, or_0100, pc3, pc2, pc1] at t3
  have r4 := host_run_step _ _ _ _ r3 (host_step_qwrite _ _ m1 _ _ _ _ _ _ t3)
  rw [stack_mod, ← hm2] at r4
  -- sub-cycle 4: the high target byte
  obtain ⟨c5, t4, i5, pc5, a5, p5, s5, e5, b5, d5⟩ := jsr_t4 c4 _ _ bank false false true rfl i4
  obtain ⟨q5, n5⟩ := tick_pips_q _ _ _ _ _ _ _ _ _ t4 q4 n4
  rw [pc4, pc3, pc2, pc1] at t4
  have r5 := host_run_step _ _ _ _ r4 (host_step_qread _ _ m2 _ _ _ _ _ _ t4)
  rw [Nat.mod_mod] at r5
  have l5 : _S c5 = (c.S % 256 + 254) % 256 := by rw [_S, s5, fin_S_low, ← _S, l4]
  -- sub-cycle 5: the fetch at the target
  obtain ⟨c6, t5, i6, pc6, a6, p6, s6, e6, b6⟩ := jsr_t5 c5 _ _ bank true true false rfl i5
  obtain ⟨q6, n6⟩ := tick_pips_q _ _ _ _ _ _ _ _ _ t5 q5 n5
  have hT : (((m2 ((c.PC + 2) % 65536 + bank % 256 * 65536) % 256 % 256) <<< 8) ||| c5.AD) % 65536 =
      tgt := by
    rw [d5, d4, d3, d2, target_val, ht]
    simp only [Nat.mod_mod]
  rw [hT] at t5 pc6
  have r6 := host_run_step _ _ _ _ r5 (host_step_qread _ _ m2 _ _ _ _ _ _ t5)
  have l6 : c6.S &&& 0xFF = (c.S % 256 + 254) % 256 := by rw [s6, fin_S_low, ← _S, l5]
  exact ⟨c1, c2, c3, c4, c5, c6, _, _, _, r1, r2, r3, r4, r5, r6, pc6, l6,
    b6.trans (b5.trans (b4.trans (b3.trans (b2.trans b1)))), q6, n6⟩

/-- RTS under the host loop: six iterations.  The low and the high byte of the return address
are read from the stack page above the low byte of S, which ends two higher, and the sixth tick
returns the opcode fetch at the return address plus one. -/
theorem run_rts (n : Nat) (s0 : Sys) (c : w65816_t) (mem : Mem) (a bank : Nat) (rw : Bool)
    (h : host_run n s0 = some (Sys.mk c (qpins a 0x60 rw true true bank).word mem))
    (hb : c.brk_flags = 0) (hi : c.irq_pip = 0) (hn : c.nmi_pip = 0)
    (ret : Nat)
    (hr : ret = mem (256 + (c.S % 256 + 1) % 256 + bank % 256 * 65536) % 256 +
      mem (256 + (c.S % 256 + 2) % 256 + bank % 256 * 65536) % 256 * 256) :
    ∃ c1 c2 c3 c4 c5 c6 d1 d2 d3 d4 d5,
      host_run (n + 1) s0 = some (Sys.mk c1 (qpins ((c.PC + 1) % 65536) d1 true false false
        bank).word mem) ∧
      host_run (n + 2) s0 = some (Sys.mk c2 (qpins (256 + c.S % 256) d2 true false false
        bank).word mem) ∧
      host_run (n + 3) s0 = some (Sys.mk c3 (qpins (256 + (c.S % 256 + 1) % 256) d3 true false true
        bank).word mem) ∧
      host_run (n + 4) s0 = some (Sys.mk c4 (qpins (256 + (c.S % 256 + 2) % 256) d4 true false true
        bank).word mem) ∧
      host_run (n + 5) s0 = some (Sys.mk c5 (qpins ret d5 true false false bank).word mem) ∧
      host_run (n + 6) s0 = some (Sys.mk c6 (qpins ((ret + 1) % 65536)
        (mem ((ret + 1) % 65536 + bank % 256 * 65536) % 256) true true true bank).word mem) ∧
      c6.PC = (ret + 1) % 65536 ∧ c6.S &&& 0xFF = (c.S % 256 + 2) % 256 ∧
      c6.brk_flags = 0 ∧ c6.irq_pip = 0 ∧ c6.nmi_pip = 0 := by
  obtain ⟨c1, t0, i1, pc1, a1, p1, s1, e1, b1⟩ := rts_t0 c a bank rw hb hi hn
  obtain ⟨q1, n1⟩ := tick_pips_q _ _ _ _ _ _ _ _ _ t0 hi hn
  have r1 := host_run_step _ _ _ _ h (host_step_qread _ _ mem _ _ _ _ _ _ t0)
  have l1 : _S c1 = c.S % 256 := by rw [_S, s1, fin_S_low, and_FF]
  -- sub-cycle 1
  obtain ⟨c2, t1, i2, pc2, a2, p2, s2, e2, b2⟩ := rts_t1 c1 _ _ bank true false false rfl i1
  obtain ⟨q2, n2⟩ := tick_pips_q _ _ _ _ _ _ _ _ _ t1 q1 n1
  have l2 : _S c2 = (c.S % 256 + 1) % 256 := by
    rw [_S, s2]
    show (if c1.emulation ≠ 0 then 0x0100 |||
        (((c1.S &&& 0xFF00) ||| (((c1.S &&& 0xFF) + 1) &&& 0xFF)) &&& 0xFF)
      else ((c1.S &&& 0xFF00) ||| (((c1.S &&& 0xFF) + 1) &&& 0xFF))) &&& 0xFF = _
    rw [S_low_pull, ← _S, l1]
  rw [l1, or_0100] at t1
  have r2 := host_run_step _ _ _ _ r1 (host_step_qread _ _ mem _ _ _ _ _ _ t1)
  -- sub-cycle 2
  obtain ⟨c3, t2, i3, pc3, a3, p3, s3, e3, b3⟩ := rts_t2 c2 _ _ bank true false false rfl i2
  obtain ⟨q3, n3⟩ := tick_pips_q _ _ _ _ _ _ _ _ _ t2 q2 n2
  have l3 : _S c3 = (c.S % 256 + 2) % 256 := by
    rw [_S, s3]
    show (if c2.emulation ≠ 0 then 0x0100 |||
        (((c2.S &&& 0xFF00) ||| (((c2.S &&& 0xFF) + 1) &&& 0xFF)) &&& 0xFF)
      else ((c2.S &&& 0xFF00) ||| (((c2.S &&& 0xFF) + 1) &&& 0xFF))) &&& 0xFF = _
    rw [S_low_pull, ← _S, l2]
    omega
  rw [l2, or_0100] at t2
  have r3 := host_run_step _ _ _ _ r2 (host_step_qread _ _ mem _ _ _ _ _ _ t2)
  rw [stack_mod] at r3
  -- sub-cycle 3
  obtain ⟨c4, t3, i4, pc4, a4, p4, s4, e4, b4, d4⟩ := rts_t3 c3 _ _ bank true false true rfl i3
  obtain ⟨q4, n4⟩ := tick_pips_q _ _ _ _ _ _ _ _ _ t3 q3 n3
  rw [l3, or_0100] at t3
  have r4 := host_run_step _ _ _ _ r3 (host_step_qread _ _ mem _ _ _ _ _ _ t3)
  rw [stack_mod] at r4
  have l4 : _S c4 = (c.S % 256 + 2) % 256 := by rw [_S, s4, fin_S_low, ← _S, l3]
  -- sub-cycle 4
  obtain ⟨c5, t4, i5, pc5, a5, p5, s5, e5, b5⟩ := rts_t4 c4 _ _ bank true false true rfl i4
  obtain ⟨q5, n5⟩ := tick_pips_q _ _ _ _ _ _ _ _ _ t4 q4 n4
  have hR : (((mem (256 + (c.S % 256 + 2) % 256 + bank % 256 * 65536) % 256 % 256) <<< 8) |||
      c4.AD) % 65536 = ret := by
    rw [d4, target_val, hr]
    simp only [Nat.mod_mod]
  rw [hR] at t4 pc5
  have r5 := host_run_step _ _ _ _ r4 (host_step_qread _ _ mem _ _ _ _ _ _ t4)
  have l5 : _S c5 = (c.S % 256 + 2) % 256 := by rw [_S, s5, fin_S_low, ← _S, l4]
  -- sub-cycle 5
  obtain ⟨c6, t5, i6, pc6, a6, p6, s6, e6, b6⟩ := rts_t5 c5 _ _ bank true false false rfl i5
  obtain ⟨q6, n6⟩ := tick_pips_q _ _ _ _ _ _ _ _ _ t5 q5 n5
  rw [pc5] at t5
  have r6 := host_run_step _ _ _ _ r5 (host_step_qread _ _ mem _ _ _ _ _ _ t5)
  rw [Nat.mod_mod] at r6
  have l6 : c6.S &&& 0xFF = (c.S % 256 + 2) % 256 := by rw [s6, fin_S_low, ← _S, l5]
  exact ⟨c1, c2, c3, c4, c5, c6, _, _, _, _, _, r1, r2, r3, r4, r5, r6, pc6.trans pc5, l6,
    b6.trans (b5.trans (b4.trans (b3.trans (b2.trans b1)))), q6, n6⟩

theorem ret_addr (p : Nat) : p % 65536 % 256 % 256 + p % 65536 / 256 % 256 % 256 * 256 = p % 65536 := by
  omega

/-- C39: under the host loop, for a JSR a (0x20) fetched at address p = PC with no interrupt
pending, let `m2` be the memory after the two pushes of JSR (the high and the low byte of p + 2
at the stack page addresses of the low byte of S and the one below) and `tgt` the target read
by the CPU.  If the byte of `m2` at `tgt` is RTS (0x60), then JSR takes six ticks (five without
an opcode fetch, the sixth returns the fetch of the RTS at `tgt`), RTS takes six ticks as well,
and its sixth tick returns the opcode fetch at p + 3; then PC = p + 3, the low byte of S has
its value from before the JSR and the memory is `m2`.  All addresses are in the bank on the
pins. -/
theorem jsr_rts_returns (c : w65816_t) (mem : Mem) (a bank : Nat) (rw : Bool)
    (hb : c.brk_flags = 0) (hi : c.irq_pip = 0) (hn : c.nmi_pip = 0)
    (m1 m2 : Mem) (tgt : Nat)
    (hm1 : m1 = fun x => if x = 256 + c.S % 256 + bank % 256 * 65536
      then (c.PC + 2) % 65536 / 256 % 256 else mem x)
    (hm2 : m2 = fun x => if x = 256 + (c.S % 256 + 255) % 256 + bank % 256 * 65536
      then (c.PC + 2) % 65536 % 256 else m1 x)
    (ht : tgt = mem ((c.PC + 1) % 65536 + bank % 256 * 65536) % 256 +
      m2 ((c.PC + 2) % 65536 + bank % 256 * 65536) % 256 * 256)
    (hrts : m2 (tgt % 65536 + bank % 256 * 65536) % 256 = 0x60) :
    (∀ k, 1 ≤ k → k ≤ 5 →
      ∃ s, host_run k (Sys.mk c (qpins a 0x20 rw true true bank).word mem) = some s ∧
        sync_out s.pins = false) ∧
    (∃ s6, host_run 6 (Sys.mk c (qpins a 0x20 rw true true bank).word mem) = some s6 ∧
      sync_out s6.pins = true ∧
      W65816_GET_ADDR s6.pins = tgt % 65536 + bank % 256 * 65536 ∧
      W65816_GET_DATA s6.pins = 0x60 ∧ s6.cpu.PC = tgt ∧ s6.mem = m2) ∧
    (∀ k, 7 ≤ k → k ≤ 11 →
      ∃ s, host_run k (Sys.mk c (qpins a 0x20 rw true true bank).word mem) = some s ∧
        sync_out s.pins = false ∧ s.mem = m2) ∧
    ∃ s12, host_run 12 (Sys.mk c (qpins a 0x20 rw true true bank).word mem) = some s12 ∧
      sync_out s12.pins = true ∧
      W65816_GET_ADDR s12.pins = (c.PC + 3) % 65536 + bank % 256 * 65536 ∧
      s12.cpu.PC = (c.PC + 3) % 65536 ∧ s12.cpu.S &&& 0xFF = c.S &&& 0xFF ∧ s12.mem = m2 := by
  obtain ⟨c1, c2, c3, c4, c5, c6, d1, d2, d5, r1, r2, r3, r4, r5, r6, pc6, l6, b6, q6, n6⟩ :=
    run_jsr 0 _ c mem a bank rw rfl hb hi hn m1 m2 tgt hm1 hm2 ht
  rw [and_FF] at l6
  have hlo : m2 (256 + (c6.S % 256 + 1) % 256 + bank % 256 * 65536) = (c.PC + 2) % 65536 % 256 := by
    have e : (c6.S % 256 + 1) % 256 = (c.S % 256 + 255) % 256 := by rw [l6]; omega
    rw [e, hm2]
    exact if_pos rfl
  have hhi : m2 (256 + (c6.S % 256 + 2) % 256 + bank % 256 * 65536) =
      (c.PC + 2) % 65536 / 256 % 256 := by
    have e : (c6.S % 256 + 2) % 256 = c.S % 256 := by rw [l6]; omega
    rw [e, hm2, hm1]
    show (if 256 + c.S % 256 + bank % 256 * 65536 =
        256 + (c.S % 256 + 255) % 256 + bank % 256 * 65536 then _ else
      (if 256 + c.S % 256 + bank % 256 * 65536 = 256 + c.S % 256 + bank % 256 * 65536
        then _ else _)) = _
    rw [if_neg (by omega), if_pos rfl]
  have hr : (c.PC + 2) % 65536 =
      m2 (256 + (c6.S % 256 + 1) % 256 + bank % 256 * 65536) % 256 +
      m2 (256 + (c6.S % 256 + 2) % 256 + bank % 256 * 65536) % 256 * 256 := by
    rw [hlo, hhi]
    exact (ret_addr _).symm
  have r6b := r6
  rw [hrts] at r6b
  obtain ⟨k1, k2, k3, k4, k5, k6, e1, e2, e3, e4, e5, u1, u2, u3, u4, u5, u6, pc12, l12, -⟩ :=
    run_rts 6 _ c6 m2 tgt bank true r6b b6 q6 n6 _ hr
  refine ⟨?_, ?_, ?_, ?_⟩
  · intro k h1 h5
    interval_cases k
    · exact ⟨_, r1, qpins_sync _ _ _ _ _ _⟩
    · exact ⟨_, r2, qpins_sync _ _ _ _ _ _⟩
    · exact ⟨_, r3, qpins_sync _ _ _ _ _ _⟩
    · exact ⟨_, r4, qpins_sync _ _ _ _ _ _⟩
    · exact ⟨_, r5, qpins_sync _ _ _ _ _ _⟩
  · refine ⟨_, r6, qpins_sync _ _ _ _ _ _, qpins_addr _ _ _ _ _ _, ?_, pc6, rfl⟩
    show W65816_GET_DATA (qpins _ _ _ _ _ _).word = _
    rw [GET_DATA_word]
    show m2 (tgt % 65536 + bank % 256 * 65536) % 256 % 256 = 0x60
    rw [Nat.mod_mod, hrts]
  · intro k h7 h11
    interval_cases k
    · exact ⟨_, u1, qpins_sync _ _ _ _ _ _, rfl⟩
    · exact ⟨_, u2, qpins_sync _ _ _ _ _ _, rfl⟩
    · exact ⟨_, u3, qpins_sync _ _ _ _ _ _, rfl⟩
    · exact ⟨_, u4, qpins_sync _ _ _ _ _ _, rfl⟩
    · exact ⟨_, u5, qpins_sync _ _ _ _ _ _, rfl⟩
  · have e3 : ((c.PC + 2) % 65536 + 1) % 65536 = (c.PC + 3) % 65536 := by omega
    rw [e3] at u6 pc12
    refine ⟨_, u6, qpins_sync _ _ _ _ _ _, ?_, pc12, ?_, rfl⟩
    · show W65816_GET_ADDR (qpins _ _ _ _ _ _).word = _
      rw [qpins_addr, Nat.mod_mod]
    · show k6.S &&& 0xFF = _
      rw [l12, l6, and_FF]
      omega

theorem jsr_rts_returns_witness :
    ({ (w65816_init false).1 with PC := 0x8000, S := 0x01FD } : w65816_t).brk_flags = 0 ∧
    ∃ s12, host_run 12 (Sys.mk { (w65816_init false).1 with PC := 0x8000, S := 0x01FD }
        (qpins 0x8000 0x20 true true true 0).word
        (fun x => if x = 0x8001 then 0x00 else if x = 0x8002 then 0x90 else if x = 0x9000 then 0x60 else 0xEA)) = some s12 ∧
      sync_out s12.pins = true ∧ W65816_GET_ADDR s12.pins = 0x8003 ∧
      s12.cpu.S &&& 0xFF = 0xFD :=
  ⟨rfl,
    match (jsr_rts_returns { (w65816_init false).1 with PC := 0x8000, S := 0x01FD }
      (fun x => if x = 0x8001 then 0x00 else if x = 0x8002 then 0x90 else if x = 0x9000 then 0x60 else 0xEA)
      0x8000 0 true (by decide) (by decide) (by decide) _ _ _ rfl rfl rfl (by decide)).2.2.2 with
    | ⟨s12, h12, hs, hA, _, hS, _⟩ => ⟨s12, h12, hs, hA.trans (by decide), hS.trans (by decide)⟩⟩

/-! ## The frame buffer on lines outside the active region -/

theorem cgia_rasterize_inactive {F : Type} (m : cgia_header) (f : cgia_firmware F) (s : cgia_t F)
    (h : s.l_count < m.MODE_V_FRONT_PORCH + m.MODE_V_SYNC_WIDTH + m.MODE_V_BACK_PORCH) :
    cgia_rasterize m f s = s := by
  simp only [cgia_rasterize]
  rw [if_neg (not_le.2 h)]

/-- A tick that rolls over to a line below the end of the back porch rasterises nothing and
copies the line buffer as it is to the row of the active line as it is. -/
theorem cgia_tick_inactive {F : Type} (m : cgia_header) (f : cgia_firmware F) (s : cgia_t F)
    (p : Nat) (hroll : s.h_count + m.CGIA_FIXEDPOINT_SCALE ≥ s.h_period)
    (hin : (cgia_tick m f s p).1.l_count <
      m.MODE_V_FRONT_PORCH + m.MODE_V_SYNC_WIDTH + m.MODE_V_BACK_PORCH) :
    (cgia_tick m f s p).1.active_line = s.active_line ∧
    (cgia_tick m f s p).1.linebuffer = s.linebuffer ∧
    (cgia_tick m f s p).1.fb =
      (cgia_copy_line m s.linebuffer m.CGIA_ACTIVE_WIDTH
        (m.CGIA_LINEBUFFER_PADDING, s.fb, s.active_line * m.CGIA_FRAMEBUFFER_WIDTH)).2.1 := by
  obtain ⟨-, -, hl, ha, hb, hf⟩ := cgia_tick_frame m f s p
  rw [hl] at hin
  rw [ha, hb, hf]
  simp only [_cgia_tick] at hin ⊢
  rw [if_pos hroll] at hin ⊢
  rw [(cgia_copy_row_frame _ _).2.2.1, (cgia_rasterize_frame _ _ _).2.2.1] at hin
  rw [cgia_rasterize_inactive m f _ hin]
  refine ⟨?_, ?_, ?_⟩
  · rw [(cgia_copy_row_frame _ _).2.2.2.1, (cgia_next_line_frame _ _).2.2.1]
  · rw [(cgia_copy_row_frame _ _).2.2.2.2, (cgia_next_line_frame _ _).2.2.2.1]
  · simp only [cgia_copy_row]
    rw [(cgia_next_line_frame _ _).2.2.1, (cgia_next_line_frame _ _).2.2.2.1,
      (cgia_next_line_frame _ _).2.2.2.2]

/-- Copying a line buffer to a row that already holds its low bytes changes nothing. -/
theorem cgia_copy_line_same (m : cgia_header) (lb : Nat → Nat) (n src : Nat) (fb : Int → Nat)
    (dst : Int)
    (h : ∀ x r : Nat, x < n → r < m.FB_H_REPEAT →
      fb (dst + x * m.FB_H_REPEAT + r) = lb (src + x) &&& 0xFF) :
    (cgia_copy_line m lb n (src, fb, dst)).2.1 = fb := by
  obtain ⟨q1, q2⟩ := cgia_copy_line_spec m lb n src fb dst
  funext i
  by_cases hi : dst ≤ i ∧ i < dst + n * m.FB_H_REPEAT
  · obtain ⟨h1, h2⟩ := hi
    have hR : 0 < m.FB_H_REPEAT := by
      rcases Nat.eq_zero_or_pos m.FB_H_REPEAT with h0 | h0
      · rw [h0] at h2
        simp at h2
        omega
      · exact h0
    obtain ⟨k, hk⟩ := Int.eq_ofNat_of_zero_le (show 0 ≤ i - dst by omega)
    have hkn : k < n * m.FB_H_REPEAT := by
      have : (k : Int) < n * m.FB_H_REPEAT := by omega
      exact_mod_cast this
    have hx : k / m.FB_H_REPEAT < n := by
      rw [Nat.div_lt_iff_lt_mul hR]
      exact hkn
    have hr : k % m.FB_H_REPEAT < m.FB_H_REPEAT := Nat.mod_lt _ hR
    have ei : i = dst + (k / m.FB_H_REPEAT : Nat) * m.FB_H_REPEAT + (k % m.FB_H_REPEAT : Nat) := by
      have e := Nat.div_add_mod k m.FB_H_REPEAT
      have e2 : (k : Int) = (k / m.FB_H_REPEAT : Nat) * m.FB_H_REPEAT + (k % m.FB_H_REPEAT : Nat) := by
        exact_mod_cast (by rw [Nat.mul_comm] at e; exact e.symm)
      omega
    rw [ei, q1 _ _ hx hr, h _ _ hx hr]
  · exact q2 i hi

/-- A tick that does not roll over leaves the active line, the line buffer and the frame
buffer as they are. -/
theorem cgia_tick_no_rollover {F : Type} (m : cgia_header) (f : cgia_firmware F) (s : cgia_t F)
    (p : Nat) (h : ¬ s.h_count + m.CGIA_FIXEDPOINT_SCALE ≥ s.h_period) :
    (cgia_tick m f s p).1.active_line = s.active_line ∧
    (cgia_tick m f s p).1.linebuffer = s.linebuffer ∧
    (cgia_tick m f s p).1.fb = s.fb := by
  obtain ⟨-, -, -, ha, hb, hf⟩ := cgia_tick_frame m f s p
  rw [ha, hb, hf]
  simp only [_cgia_tick]
  rw [if_neg h]
  exact ⟨rfl, rfl, rfl⟩

/-- After a tick that rolls over, the frame buffer row of the active line holds the low bytes
of the line buffer. -/
theorem cgia_tick_synced {F : Type} (m : cgia_header) (f : cgia_firmware F) (s : cgia_t F)
    (p : Nat) (hroll : s.h_count + m.CGIA_FIXEDPOINT_SCALE ≥ s.h_period) :
    ∀ x r : Nat, x < m.CGIA_ACTIVE_WIDTH → r < m.FB_H_REPEAT →
      (cgia_tick m f s p).1.fb ((cgia_tick m f s p).1.active_line * m.CGIA_FRAMEBUFFER_WIDTH + x * m.FB_H_REPEAT + r) =
        (cgia_tick m f s p).1.linebuffer (m.CGIA_LINEBUFFER_PADDING + x) &&& 0xFF := by
  obtain ⟨s3, h0, h1, h2, h3⟩ := cgia_tick_rollover m f s p hroll
  rw [h1, h2, h3]
  exact (cgia_copy_line_spec m s3.linebuffer m.CGIA_ACTIVE_WIDTH m.CGIA_LINEBUFFER_PADDING s3.fb
    (s3.active_line * m.CGIA_FRAMEBUFFER_WIDTH)).1

/-- Once the frame buffer row of the active line holds the low bytes of the line buffer, it
does so after every further tick. -/
theorem cgia_run_synced {F : Type} (m : cgia_header) (f : cgia_firmware F) (ps : List Nat) :
    ∀ s : cgia_t F,
      (∀ x r : Nat, x < m.CGIA_ACTIVE_WIDTH → r < m.FB_H_REPEAT →
      s.fb (s.active_line * m.CGIA_FRAMEBUFFER_WIDTH + x * m.FB_H_REPEAT + r) =
        s.linebuffer (m.CGIA_LINEBUFFER_PADDING + x) &&& 0xFF) →
      (∀ x r : Nat, x < m.CGIA_ACTIVE_WIDTH → r < m.FB_H_REPEAT →
      (cgia_run m f ps s).fb ((cgia_run m f ps s).active_line * m.CGIA_FRAMEBUFFER_WIDTH + x * m.FB_H_REPEAT + r) =
        (cgia_run m f ps s).linebuffer (m.CGIA_LINEBUFFER_PADDING + x) &&& 0xFF) := by
  induction ps with
  | nil => intro s h; exact h
  | cons p ps ih =>
    intro s h
    rw [cgia_run]
    apply ih
    by_cases hroll : s.h_count + m.CGIA_FIXEDPOINT_SCALE ≥ s.h_period
    · exact cgia_tick_synced m f s p hroll
    · obtain ⟨e1, e2, e3⟩ := cgia_tick_no_rollover m f s p hroll
      rw [e1, e2, e3]
      exact h

/-- As long as the horizontal counter stays below the period, a run of ticks with the same
pins only advances the horizontal counter. -/
theorem cgia_run_idle {F : Type} (m : cgia_header) (f : cgia_firmware F) (p : Nat)
    (h0 : 0 ≤ m.CGIA_FIXEDPOINT_SCALE) :
    ∀ (n : Nat) (s : cgia_t F), s.h_count + n * m.CGIA_FIXEDPOINT_SCALE < s.h_period →
      (cgia_run m f (List.replicate n p) s).h_count = s.h_count + n * m.CGIA_FIXEDPOINT_SCALE ∧
      (cgia_run m f (List.replicate n p) s).h_period = s.h_period ∧
      (cgia_run m f (List.replicate n p) s).l_count = s.l_count ∧
      (cgia_run m f (List.replicate n p) s).active_line = s.active_line ∧
      (cgia_run m f (List.replicate n p) s).linebuffer = s.linebuffer ∧
      (cgia_run m f (List.replicate n p) s).fb = s.fb := by
  intro n
  induction n with
  | zero =>
    intro s _
    refine ⟨?_, rfl, rfl, rfl, rfl, rfl⟩
    show s.h_count = s.h_count + ((0 : Nat) : Int) * m.CGIA_FIXEDPOINT_SCALE
    rw [Int.ofNat_zero, Int.zero_mul, Int.add_zero]
  | succ n ih =>
    intro s h
    have e : ((n + 1 : Nat) : Int) * m.CGIA_FIXEDPOINT_SCALE =
        m.CGIA_FIXEDPOINT_SCALE + n * m.CGIA_FIXEDPOINT_SCALE := by
      push_cast
      ring
    rw [e] at h ⊢
    have hn : 0 ≤ (n : Int) * m.CGIA_FIXEDPOINT_SCALE := Int.mul_nonneg (Int.ofNat_nonneg n) h0
    have hno : ¬ s.h_count + m.CGIA_FIXEDPOINT_SCALE ≥ s.h_period := by omega
    obtain ⟨t1, t2, t3⟩ := cgia_tick_no_rollover m f s p hno
    have t4 := cgia_tick_h_count m f s p
    have t5 := cgia_tick_h_period m f s p
    have t6 := cgia_tick_l_count m f s p
    rw [if_neg hno] at t4 t6
    obtain ⟨r1, r2, r3, r4, r5, r6⟩ := ih (cgia_tick m f s p).1 (by rw [t4, t5]; omega)
    rw [List.replicate_succ, cgia_run, r1, r2, r3, r4, r5, r6, t1, t2, t3, t4, t5, t6]
    exact ⟨by omega, rfl, rfl, rfl, rfl, rfl⟩

/-- A byte of the copied row after a tick that rolls over to a line outside the active
region. -/
theorem cgia_tick_inactive_byte {F : Type} (m : cgia_header) (f : cgia_firmware F) (s : cgia_t F)
    (p : Nat) (hroll : s.h_count + m.CGIA_FIXEDPOINT_SCALE ≥ s.h_period)
    (hin : (cgia_tick m f s p).1.l_count <
      m.MODE_V_FRONT_PORCH + m.MODE_V_SYNC_WIDTH + m.MODE_V_BACK_PORCH)
    (i : Int) (x r v : Nat) (hx : x < m.CGIA_ACTIVE_WIDTH) (hr : r < m.FB_H_REPEAT)
    (hi : i = s.active_line * m.CGIA_FRAMEBUFFER_WIDTH + x * m.FB_H_REPEAT + r)
    (hv : s.linebuffer (m.CGIA_LINEBUFFER_PADDING + x) &&& 0xFF = v) :
    (cgia_tick m f s p).1.fb i = v := by
  obtain ⟨-, -, hf⟩ := cgia_tick_inactive m f s p hroll hin
  rw [hf, hi, ← hv]
  exact (cgia_copy_line_spec m s.linebuffer m.CGIA_ACTIVE_WIDTH m.CGIA_LINEBUFFER_PADDING s.fb
    (s.active_line * m.CGIA_FRAMEBUFFER_WIDTH)).1 x r hx hr

/-- A byte outside the copied row after a tick that rolls over to a line outside the active
region. -/
theorem cgia_tick_inactive_other {F : Type} (m : cgia_header) (f : cgia_firmware F)
    (s : cgia_t F) (p : Nat) (hroll : s.h_count + m.CGIA_FIXEDPOINT_SCALE ≥ s.h_period)
    (hin : (cgia_tick m f s p).1.l_count <
      m.MODE_V_FRONT_PORCH + m.MODE_V_SYNC_WIDTH + m.MODE_V_BACK_PORCH)
    (i : Int)
    (hi : ¬ (s.active_line * m.CGIA_FRAMEBUFFER_WIDTH ≤ i ∧
      i < s.active_line * m.CGIA_FRAMEBUFFER_WIDTH + m.CGIA_ACTIVE_WIDTH * m.FB_H_REPEAT)) :
    (cgia_tick m f s p).1.fb i = s.fb i := by
  obtain ⟨-, -, hf⟩ := cgia_tick_inactive m f s p hroll hin
  rw [hf]
  exact (cgia_copy_line_spec m s.linebuffer m.CGIA_ACTIVE_WIDTH m.CGIA_LINEBUFFER_PADDING s.fb
    (s.active_line * m.CGIA_FRAMEBUFFER_WIDTH)).2 i hi

/-- C31 (counterexample): with the example constants 800 pixels per line, 25200 kHz, scale 256,
porches and sync of 10 + 2 + 33 lines, 384 active pixels repeated twice, `cgia_init` with
tick_hz = 1000000 on a frame buffer filled with 7 gives h_period = 8126.  After 31 ticks the
frame buffer is as it was.  The 32nd tick is the first that advances the line: it advances to
line 1, in the front porch, and it overwrites the frame buffer bytes 0 to 767 with the low
byte 0 of the zeroed line buffer. -/
theorem cgia_porch_line_overwrites_row :
    ∃ vpu s31 : cgia_t Unit,
      cgia_init (cgia_header.mk 256 800 25200 525 10 2 33 2 2 384 768 8 1 2
        (fun p => p % 256) (fun p => p / 256 % 256) (fun p d => p % 256 + d * 256))
        1000000 (fun _ => 7) () = some vpu ∧
      vpu.h_period = 8126 ∧
      s31 = cgia_run (cgia_header.mk 256 800 25200 525 10 2 33 2 2 384 768 8 1 2
        (fun p => p % 256) (fun p => p / 256 % 256) (fun p d => p % 256 + d * 256))
        (cgia_firmware.mk (fun w r _ l => (w, r, l)) (fun w r => (w, r))) (List.replicate 31 0) vpu ∧
      s31.fb 0 = 7 ∧ s31.fb 767 = 7 ∧
      s31.h_count + 256 ≥ s31.h_period ∧
      (cgia_tick (cgia_header.mk 256 800 25200 525 10 2 33 2 2 384 768 8 1 2
        (fun p => p % 256) (fun p => p / 256 % 256) (fun p d => p % 256 + d * 256))
        (cgia_firmware.mk (fun w r _ l => (w, r, l)) (fun w r => (w, r))) s31 0).1.l_count = 1 ∧
      (1 : Int) < 10 + 2 + 33 ∧
      (cgia_tick (cgia_header.mk 256 800 25200 525 10 2 33 2 2 384 768 8 1 2
        (fun p => p % 256) (fun p => p / 256 % 256) (fun p d => p % 256 + d * 256))
        (cgia_firmware.mk (fun w r _ l => (w, r, l)) (fun w r => (w, r))) s31 0).1.fb 0 = 0 ∧
      (cgia_tick (cgia_header.mk 256 800 25200 525 10 2 33 2 2 384 768 8 1 2
        (fun p => p % 256) (fun p => p / 256 % 256) (fun p d => p % 256 + d * 256))
        (cgia_firmware.mk (fun w r _ l => (w, r, l)) (fun w r => (w, r))) s31 0).1.fb 767 = 0 ∧
      (cgia_tick (cgia_header.mk 256 800 25200 525 10 2 33 2 2 384 768 8 1 2
        (fun p => p % 256) (fun p => p / 256 % 256) (fun p d => p % 256 + d * 256))
        (cgia_firmware.mk (fun w r _ l => (w, r, l)) (fun w r => (w, r))) s31 0).1.fb 768 = 7 := by
  obtain ⟨i1, i2, i3, i4, i5, i6⟩ := cgia_run_idle (cgia_header.mk 256 800 25200 525 10 2 33 2 2 384 768 8 1 2
        (fun p => p % 256) (fun p => p / 256 % 256) (fun p d => p % 256 + d * 256))
    (cgia_firmware.mk (fun w r _ l => (w, r, l)) (fun w r => (w, r))) 0 (by decide) 31
    (cgia_t.mk 0 8126 0 0 (fun _ => 0) (fun _ => 7) (fun _ => 0) 0 ()) (by decide)
  have hroll : (cgia_run (cgia_header.mk 256 800 25200 525 10 2 33 2 2 384 768 8 1 2
        (fun p => p % 256) (fun p => p / 256 % 256) (fun p d => p % 256 + d * 256))
      (cgia_firmware.mk (fun w r _ l => (w, r, l)) (fun w r => (w, r))) (List.replicate 31 0)
      (cgia_t.mk 0 8126 0 0 (fun _ => 0) (fun _ => 7) (fun _ => 0) 0 ())).h_count + (cgia_header.mk 256 800 25200 525 10 2 33 2 2 384 768 8 1 2
        (fun p => p % 256) (fun p => p / 256 % 256) (fun p d => p % 256 + d * 256)).CGIA_FIXEDPOINT_SCALE ≥
      (cgia_run (cgia_header.mk 256 800 25200 525 10 2 33 2 2 384 768 8 1 2
        (fun p => p % 256) (fun p => p / 256 % 256) (fun p d => p % 256 + d * 256))
      (cgia_firmware.mk (fun w r _ l => (w, r, l)) (fun w r => (w, r))) (List.replicate 31 0)
      (cgia_t.mk 0 8126 0 0 (fun _ => 0) (fun _ => 7) (fun _ => 0) 0 ())).h_period := by
    rw [i1, i2]
    decide
  have hl : (cgia_tick (cgia_header.mk 256 800 25200 525 10 2 33 2 2 384 768 8 1 2
        (fun p => p % 256) (fun p => p / 256 % 256) (fun p d => p % 256 + d * 256))
      (cgia_firmware.mk (fun w r _ l => (w, r, l)) (fun w r => (w, r)))
      (cgia_run (cgia_header.mk 256 800 25200 525 10 2 33 2 2 384 768 8 1 2
        (fun p => p % 256) (fun p => p / 256 % 256) (fun p d => p % 256 + d * 256))
      (cgia_firmware.mk (fun w r _ l => (w, r, l)) (fun w r => (w, r))) (List.replicate 31 0)
      (cgia_t.mk 0 8126 0 0 (fun _ => 0) (fun _ => 7) (fun _ => 0) 0 ())) 0).1.l_count = 1 := by
    rw [cgia_tick_l_count, if_pos hroll, i3]
    decide
  have hin : (cgia_tick (cgia_header.mk 256 800 25200 525 10 2 33 2 2 384 768 8 1 2
        (fun p => p % 256) (fun p => p / 256 % 256) (fun p d => p % 256 + d * 256))
      (cgia_firmware.mk (fun w r _ l => (w, r, l)) (fun w r => (w, r)))
      (cgia_run (cgia_header.mk 256 800 25200 525 10 2 33 2 2 384 768 8 1 2
        (fun p => p % 256) (fun p => p / 256 % 256) (fun p d => p % 256 + d * 256))
      (cgia_firmware.mk (fun w r _ l => (w, r, l)) (fun w r => (w, r))) (List.replicate 31 0)
      (cgia_t.mk 0 8126 0 0 (fun _ => 0) (fun _ => 7) (fun _ => 0) 0 ())) 0).1.l_count <
      (cgia_header.mk 256 800 25200 525 10 2 33 2 2 384 768 8 1 2
        (fun p => p % 256) (fun p => p / 256 % 256) (fun p d => p % 256 + d * 256)).MODE_V_FRONT_PORCH +
      (cgia_header.mk 256 800 25200 525 10 2 33 2 2 384 768 8 1 2
        (fun p => p % 256) (fun p => p / 256 % 256) (fun p d => p % 256 + d * 256)).MODE_V_SYNC_WIDTH +
      (cgia_header.mk 256 800 25200 525 10 2 33 2 2 384 768 8 1 2
        (fun p => p % 256) (fun p => p / 256 % 256) (fun p d => p % 256 + d * 256)).MODE_V_BACK_PORCH := by
    rw [hl]
    decide
  have hinit : cgia_init (cgia_header.mk 256 800 25200 525 10 2 33 2 2 384 768 8 1 2
        (fun p => p % 256) (fun p => p / 256 % 256) (fun p d => p % 256 + d * 256))
      1000000 (fun _ => 7) () = some (cgia_t.mk 0 8126 0 0 (fun _ => 0) (fun _ => 7) (fun _ => 0) 0 ()) := by
    rw [cgia_init, if_pos (by decide)]
    rfl
  refine ⟨(cgia_t.mk 0 8126 0 0 (fun _ => 0) (fun _ => 7) (fun _ => 0) 0 ()),
    (cgia_run (cgia_header.mk 256 800 25200 525 10 2 33 2 2 384 768 8 1 2
        (fun p => p % 256) (fun p => p / 256 % 256) (fun p d => p % 256 + d * 256))
      (cgia_firmware.mk (fun w r _ l => (w, r, l)) (fun w r => (w, r))) (List.replicate 31 0)
      (cgia_t.mk 0 8126 0 0 (fun _ => 0) (fun _ => 7) (fun _ => 0) 0 ())),
    hinit, rfl, rfl, ?_, ?_, hroll, hl, by decide, ?_, ?_, ?_⟩
  · rw [i6]
  · rw [i6]
  · exact cgia_tick_inactive_byte (cgia_header.mk 256 800 25200 525 10 2 33 2 2 384 768 8 1 2
        (fun p => p % 256) (fun p => p / 256 % 256) (fun p d => p % 256 + d * 256))
      (cgia_firmware.mk (fun w r _ l => (w, r, l)) (fun w r => (w, r)))
      (cgia_run (cgia_header.mk 256 800 25200 525 10 2 33 2 2 384 768 8 1 2
        (fun p => p % 256) (fun p => p / 256 % 256) (fun p d => p % 256 + d * 256))
      (cgia_firmware.mk (fun w r _ l => (w, r, l)) (fun w r => (w, r))) (List.replicate 31 0)
      (cgia_t.mk 0 8126 0 0 (fun _ => 0) (fun _ => 7) (fun _ => 0) 0 ())) 0 hroll hin 0 0 0 0 (by decide) (by decide)
      (by rw [i4]; decide) (by rw [i5]; decide)
  · exact cgia_tick_inactive_byte (cgia_header.mk 256 800 25200 525 10 2 33 2 2 384 768 8 1 2
        (fun p => p % 256) (fun p => p / 256 % 256) (fun p d => p % 256 + d * 256))
      (cgia_firmware.mk (fun w r _ l => (w, r, l)) (fun w r => (w, r)))
      (cgia_run (cgia_header.mk 256 800 25200 525 10 2 33 2 2 384 768 8 1 2
        (fun p => p % 256) (fun p => p / 256 % 256) (fun p d => p % 256 + d * 256))
      (cgia_firmware.mk (fun w r _ l => (w, r, l)) (fun w r => (w, r))) (List.replicate 31 0)
      (cgia_t.mk 0 8126 0 0 (fun _ => 0) (fun _ => 7) (fun _ => 0) 0 ())) 0 hroll hin 767 383 1 0 (by decide) (by decide)
      (by rw [i4]; decide) (by rw [i5]; decide)
  · refine (cgia_tick_inactive_other (cgia_header.mk 256 800 25200 525 10 2 33 2 2 384 768 8 1 2
        (fun p => p % 256) (fun p => p / 256 % 256) (fun p d => p % 256 + d * 256))
      (cgia_firmware.mk (fun w r _ l => (w, r, l)) (fun w r => (w, r)))
      (cgia_run (cgia_header.mk 256 800 25200 525 10 2 33 2 2 384 768 8 1 2
        (fun p => p % 256) (fun p => p / 256 % 256) (fun p d => p % 256 + d * 256))
      (cgia_firmware.mk (fun w r _ l => (w, r, l)) (fun w r => (w, r))) (List.replicate 31 0)
      (cgia_t.mk 0 8126 0 0 (fun _ => 0) (fun _ => 7) (fun _ => 0) 0 ())) 0 hroll hin 768 ?_).trans ?_
    · rw [i4]
      decide
    · rw [i6]

/-- C31 (amended): on a `cgia_tick` that advances to a line outside the active region
(the horizontal counter rolls over and the new `l_count` is below front porch + sync width +
back porch) nothing is rasterised, `active_line` and the line buffer stay as they are, and the
row copy is still executed: the `CGIA_ACTIVE_WIDTH * FB_H_REPEAT` frame buffer bytes from
`active_line * CGIA_FRAMEBUFFER_WIDTH` on are overwritten with the low bytes of the line
buffer pixels, every other frame buffer byte is unchanged.  The frame buffer as a whole is
unchanged when that row already holds these bytes, and it does so in every state reached by
ticks after a tick that advanced the line. -/
theorem cgia_inactive_line_copy {F : Type} (m : cgia_header) (f : cgia_firmware F) (s : cgia_t F)
    (p : Nat) (hroll : s.h_count + m.CGIA_FIXEDPOINT_SCALE ≥ s.h_period)
    (hin : (cgia_tick m f s p).1.l_count < m.MODE_V_FRONT_PORCH + m.MODE_V_SYNC_WIDTH + m.MODE_V_BACK_PORCH) :
    (cgia_tick m f s p).1.active_line = s.active_line ∧
    (cgia_tick m f s p).1.linebuffer = s.linebuffer ∧
    (∀ x r : Nat, x < m.CGIA_ACTIVE_WIDTH → r < m.FB_H_REPEAT →
      (cgia_tick m f s p).1.fb
          (s.active_line * m.CGIA_FRAMEBUFFER_WIDTH + x * m.FB_H_REPEAT + r) =
        s.linebuffer (m.CGIA_LINEBUFFER_PADDING + x) &&& 0xFF) ∧
    (∀ i : Int,
      ¬ (s.active_line * m.CGIA_FRAMEBUFFER_WIDTH ≤ i ∧
         i < s.active_line * m.CGIA_FRAMEBUFFER_WIDTH + m.CGIA_ACTIVE_WIDTH * m.FB_H_REPEAT) →
      (cgia_tick m f s p).1.fb i = s.fb i) ∧
    ((∀ x r : Nat, x < m.CGIA_ACTIVE_WIDTH → r < m.FB_H_REPEAT →
      s.fb (s.active_line * m.CGIA_FRAMEBUFFER_WIDTH + x * m.FB_H_REPEAT + r) =
        s.linebuffer (m.CGIA_LINEBUFFER_PADDING + x) &&& 0xFF) →
      (cgia_tick m f s p).1.fb = s.fb) ∧
    (∀ (s0 : cgia_t F) (p0 : Nat) (ps : List Nat),
      s0.h_count + m.CGIA_FIXEDPOINT_SCALE ≥ s0.h_period →
      s = cgia_run m f ps (cgia_tick m f s0 p0).1 → (cgia_tick m f s p).1.fb = s.fb) := by
  obtain ⟨ha, hb, hf⟩ := cgia_tick_inactive m f s p hroll hin
  obtain ⟨q1, q2⟩ := cgia_copy_line_spec m s.linebuffer m.CGIA_ACTIVE_WIDTH
    m.CGIA_LINEBUFFER_PADDING s.fb (s.active_line * m.CGIA_FRAMEBUFFER_WIDTH)
  have hsame : (∀ x r : Nat, x < m.CGIA_ACTIVE_WIDTH → r < m.FB_H_REPEAT →
      s.fb (s.active_line * m.CGIA_FRAMEBUFFER_WIDTH + x * m.FB_H_REPEAT + r) =
        s.linebuffer (m.CGIA_LINEBUFFER_PADDING + x) &&& 0xFF) →
      (cgia_tick m f s p).1.fb = s.fb := by
    intro h
    rw [hf]
    exact cgia_copy_line_same m _ _ _ _ _ h
  refine ⟨ha, hb, ?_, ?_, hsame, ?_⟩
  · rw [hf]; exact q1
  · rw [hf]; exact q2
  · intro s0 p0 ps h0 hs
    apply hsame
    rw [hs]
    exact cgia_run_synced m f ps _ (cgia_tick_synced m f s0 p0 h0)

theorem cgia_inactive_line_copy_witness :
    ((cgia_t.mk 0 0 0 0 (fun _ => 0) (fun _ => 7) (fun _ => 0) 0 ()) : cgia_t Unit).h_count + 256 ≥ ((cgia_t.mk 0 0 0 0 (fun _ => 0) (fun _ => 7) (fun _ => 0) 0 ()) : cgia_t Unit).h_period ∧
    (cgia_tick (cgia_header.mk 256 800 25200 525 10 2 33 2 2 4 8 8 1 2
        (fun p => p % 256) (fun p => p / 256 % 256) (fun p d => p % 256 + d * 256))
      (cgia_firmware.mk (fun w r _ l => (w, r, l)) (fun w r => (w, r)))
      (cgia_t.mk 0 0 0 0 (fun _ => 0) (fun _ => 7) (fun _ => 0) 0 ()) 0).1.l_count < 10 + 2 + 33 ∧
    (cgia_tick (cgia_header.mk 256 800 25200 525 10 2 33 2 2 4 8 8 1 2
        (fun p => p % 256) (fun p => p / 256 % 256) (fun p d => p % 256 + d * 256))
      (cgia_firmware.mk (fun w r _ l => (w, r, l)) (fun w r => (w, r)))
      (cgia_t.mk 0 0 0 0 (fun _ => 0) (fun _ => 7) (fun _ => 0) 0 ()) 0).1.fb
        ((0 : Int) * 8 + (3 : Nat) * (2 : Nat) + (1 : Nat)) = (0 : Nat) &&& 0xFF ∧
    (cgia_tick (cgia_header.mk 256 800 25200 525 10 2 33 2 2 4 8 8 1 2
        (fun p => p % 256) (fun p => p / 256 % 256) (fun p d => p % 256 + d * 256))
      (cgia_firmware.mk (fun w r _ l => (w, r, l)) (fun w r => (w, r)))
      (cgia_t.mk 0 0 0 0 (fun _ => 0) (fun _ => 7) (fun _ => 0) 0 ()) 0).1.fb 8 = 7 :=
  ⟨by decide, by decide,
    (cgia_inactive_line_copy (cgia_header.mk 256 800 25200 525 10 2 33 2 2 4 8 8 1 2
        (fun p => p % 256) (fun p => p / 256 % 256) (fun p d => p % 256 + d * 256))
      (cgia_firmware.mk (fun w r _ l => (w, r, l)) (fun w r => (w, r)))
      (cgia_t.mk 0 0 0 0 (fun _ => 0) (fun _ => 7) (fun _ => 0) 0 ()) 0 (by decide) (by decide)).2.2.1 3 1 (by decide) (by decide),
    ((cgia_inactive_line_copy (cgia_header.mk 256 800 25200 525 10 2 33 2 2 4 8 8 1 2
        (fun p => p % 256) (fun p => p / 256 % 256) (fun p d => p % 256 + d * 256))
      (cgia_firmware.mk (fun w r _ l => (w, r, l)) (fun w r => (w, r)))
      (cgia_t.mk 0 0 0 0 (fun _ => 0) (fun _ => 7) (fun _ => 0) 0 ()) 0 (by decide) (by decide)).2.2.2.1 8 (by decide)).trans rfl⟩

/-! ## The VRAM cache copy -/

/-- The copy loop fills the offsets `i .. i + n - 1` of the row and leaves the others. -/
theorem cgia_copy_vcache_loop_spec (m : cgia_header) (fetch_cb : Nat → Nat) (wanted : Nat)
    (n : Nat) :
    ∀ (i : Nat) (row : Nat → Nat) (j : Nat),
      cgia_copy_vcache_loop m fetch_cb wanted n i row j =
        if i ≤ j ∧ j < i + n then m.CGIA_GET_DATA (fetch_cb (wanted ||| j)) % 256 else row j := by
  induction n with
  | zero =>
    intro i row j
    rw [cgia_copy_vcache_loop, if_neg (by omega)]
  | succ n ih =>
    intro i row j
    rw [cgia_copy_vcache_loop, ih]
    by_cases h1 : i + 1 ≤ j ∧ j < i + 1 + n
    · rw [if_pos h1, if_pos (by omega)]
    · rw [if_neg h1]
      by_cases h2 : j = i
      · rw [if_pos h2, if_pos (by omega), h2]
      · rw [if_neg h2, if_neg (by omega)]

/-- The effect of `_cgia_copy_vcache_bank` on the cache. -/
theorem cgia_copy_vcache_bank_cache (m : cgia_header) (fetch_cb : Nat → Nat) (g : cgia_vram)
    (bank b i : Nat) :
    (_cgia_copy_vcache_bank m fetch_cb g bank).vram_cache b i =
      if b = bank % 256 ∧ i < 65536 then
        m.CGIA_GET_DATA (fetch_cb (g.vram_wanted_bank_mask (bank % 256) ||| i)) % 256
      else g.vram_cache b i := by
  simp only [_cgia_copy_vcache_bank]
  by_cases hb : b = bank % 256
  · rw [if_pos hb, cgia_copy_vcache_loop_spec, hb]
    by_cases hi : i < 65536
    · rw [if_pos (by omega), if_pos ⟨rfl, hi⟩]
    · rw [if_neg (by omega), if_neg (fun h => hi h.2)]
  · rw [if_neg hb, if_neg (fun h => hb h.1)]

theorem cgia_copy_vcache_bank_masks (m : cgia_header) (fetch_cb : Nat → Nat) (g : cgia_vram)
    (bank : Nat) :
    (_cgia_copy_vcache_bank m fetch_cb g bank).vram_wanted_bank_mask = g.vram_wanted_bank_mask ∧
    (_cgia_copy_vcache_bank m fetch_cb g bank).vram_cache_bank_mask = g.vram_cache_bank_mask :=
  ⟨rfl, rfl⟩

/-- C32: after `_cgia_copy_vcache_bank(vpu, bank)` with a `uint8_t` bank, for every offset `i` in 0..65535 the cache
byte `vram_cache[bank][i]` is the data field of the pin word returned by
`fetch_cb(vram_wanted_bank_mask[bank] | i, user_data)`, which is bits 16-23 when
`CGIA_GET_DATA` extracts these bits; the other bank and the two bank masks are left as they
are.  `_cgia_transfer_vcache_bank` (with `CGIA_vpu` set) performs this copy when the wanted and
the cached bank mask differ and leaves everything as it is when they are equal, and
`cgia_mirror_vram` performs it for bank 0 and for bank 1 whatever the masks are. -/
theorem cgia_vcache_copy (m : cgia_header) (fetch_cb : Nat → Nat) (g : cgia_vram) (bank : Nat)
    (hbank : bank < 256) (hD : ∀ p, m.CGIA_GET_DATA p = (p >>> 16) % 256) :
    (∀ i, i < 65536 →
      (_cgia_copy_vcache_bank m fetch_cb g bank).vram_cache bank i =
        m.CGIA_GET_DATA (fetch_cb (g.vram_wanted_bank_mask bank ||| i)) ∧
      (_cgia_copy_vcache_bank m fetch_cb g bank).vram_cache bank i =
        (fetch_cb (g.vram_wanted_bank_mask bank ||| i) >>> 16) % 256) ∧
    (∀ b i, b ≠ bank →
      (_cgia_copy_vcache_bank m fetch_cb g bank).vram_cache b i = g.vram_cache b i) ∧
    (_cgia_copy_vcache_bank m fetch_cb g bank).vram_wanted_bank_mask = g.vram_wanted_bank_mask ∧
    (_cgia_copy_vcache_bank m fetch_cb g bank).vram_cache_bank_mask = g.vram_cache_bank_mask ∧
    (g.vram_wanted_bank_mask bank ≠ g.vram_cache_bank_mask bank →
      _cgia_transfer_vcache_bank m (some fetch_cb) g bank =
        some (_cgia_copy_vcache_bank m fetch_cb g bank)) ∧
    (g.vram_wanted_bank_mask bank = g.vram_cache_bank_mask bank →
      _cgia_transfer_vcache_bank m (some fetch_cb) g bank = some g) ∧
    cgia_mirror_vram m fetch_cb g =
      _cgia_copy_vcache_bank m fetch_cb (_cgia_copy_vcache_bank m fetch_cb g 0) 1 ∧
    (∀ b i, b < 2 → i < 65536 →
      (cgia_mirror_vram m fetch_cb g).vram_cache b i =
        (fetch_cb (g.vram_wanted_bank_mask b ||| i) >>> 16) % 256) := by
  have hb : bank % 256 = bank := Nat.mod_eq_of_lt (by omega)
  refine ⟨?_, ?_, rfl, rfl, ?_, ?_, rfl, ?_⟩
  · intro i hi
    have e := cgia_copy_vcache_bank_cache m fetch_cb g bank bank i
    rw [hb, if_pos ⟨rfl, hi⟩] at e
    constructor
    · rw [e, hD, Nat.mod_mod]
    · rw [e, hD, Nat.mod_mod]
  · intro b i hne
    rw [cgia_copy_vcache_bank_cache, hb, if_neg (fun h => hne h.1)]
  · intro hne
    simp only [_cgia_transfer_vcache_bank, hb]
    rw [if_pos hne]
  · intro heq
    simp only [_cgia_transfer_vcache_bank, hb]
    rw [if_neg (not_not.2 heq)]
  · intro b i hb2 hi
    simp only [cgia_mirror_vram]
    rw [cgia_copy_vcache_bank_cache]
    have hb1 : b = 0 ∨ b = 1 := by omega
    rcases hb1 with h0 | h1
    · subst h0
      rw [if_neg (fun h => absurd h.1 (by decide)), cgia_copy_vcache_bank_cache,
        if_pos ⟨by decide, hi⟩, hD, Nat.mod_mod]
    · subst h1
      rw [if_pos ⟨by decide, hi⟩, hD, Nat.mod_mod]
      rfl

/-- Witness of C32: with the data field in bits 16-23, a fetch callback that answers address
`a` with the byte `a % 251` and bank 1 wanted at `0x20000`, the copy leaves `0x20005 % 251`
at offset 5 of bank 1. -/
theorem cgia_vcache_copy_witness :
    (1 : Nat) < 256 ∧
    (_cgia_copy_vcache_bank
      (cgia_header.mk 256 800 25200 525 10 2 33 2 2 384 768 8 1 2 (fun p => p % 256)
        (fun p => (p >>> 16) % 256) (fun p d => p % 65536 + d * 65536))
      (fun a => (a % 251) * 65536)
      (cgia_vram.mk (fun _ _ => 0) (fun b => if b = 0 then 0x10000 else 0x20000) (fun _ => 0))
      1).vram_cache 1 5 = 0x20005 % 251 :=
  ⟨by decide,
   ((cgia_vcache_copy
      (cgia_header.mk 256 800 25200 525 10 2 33 2 2 384 768 8 1 2 (fun p => p % 256)
        (fun p => (p >>> 16) % 256) (fun p d => p % 65536 + d * 65536))
      (fun a => (a % 251) * 65536)
      (cgia_vram.mk (fun _ _ => 0) (fun b => if b = 0 then 0x10000 else 0x20000) (fun _ => 0))
      1 (by decide) (fun _ => rfl)).1 5 (by decide)).2.trans (by decide)⟩

/-! ## The interpolator stand-ins -/

/-- A pop on `interp1`: `interp0` is untouched, both accumulators of `interp1` are advanced by
the bases of `interp0`, the bases of `interp1` are not used. -/
theorem interp_pop_1 (a : interp_hw_array) (lane : Nat) :
    (interp_pop_lane_result a 1 lane).1.interp0 = a.interp0 ∧
    (interp_pop_lane_result a 1 lane).1.interp1.base = a.interp1.base ∧
    (interp_pop_lane_result a 1 lane).1.interp1.accum 0 =
      (a.interp1.accum 0 + a.interp0.base 0) % 2 ^ 64 ∧
    (interp_pop_lane_result a 1 lane).1.interp1.accum 1 =
      (a.interp1.accum 1 + a.interp0.base 1) % 2 ^ 64 ∧
    (interp_pop_lane_result a 1 lane).2 = (interp_pop_lane_result a 1 lane).1.interp1.accum lane :=
  ⟨rfl, rfl, rfl, rfl, rfl⟩

/-- A pop on `interp0`: `interp1` is untouched, both accumulators of `interp0` are advanced by
its own bases. -/
theorem interp_pop_0 (a : interp_hw_array) (lane : Nat) :
    (interp_pop_lane_result a 0 lane).1.interp1 = a.interp1 ∧
    (interp_pop_lane_result a 0 lane).1.interp0.base = a.interp0.base ∧
    (interp_pop_lane_result a 0 lane).1.interp0.accum 0 =
      (a.interp0.accum 0 + a.interp0.base 0) % 2 ^ 64 ∧
    (interp_pop_lane_result a 0 lane).1.interp0.accum 1 =
      (a.interp0.accum 1 + a.interp0.base 1) % 2 ^ 64 ∧
    (interp_pop_lane_result a 0 lane).2 = (interp_pop_lane_result a 0 lane).1.interp0.accum lane :=
  ⟨rfl, rfl, rfl, rfl, rfl⟩

/-- The value returned by a pop: the accumulator of the lane plus the base of that lane of
`interp0`. -/
theorem interp_pop_value (a : interp_hw_array) (interp lane : Nat) (hl : lane < 2) :
    (interp_pop_lane_result a interp lane).2 =
      ((interp_at a interp).accum lane + a.interp0.base lane) % 2 ^ 64 := by
  have h : lane = 0 ∨ lane = 1 := by omega
  by_cases hi : interp = 0
  · subst hi
    rcases h with h | h <;> subst h <;> rfl
  · simp only [interp_pop_lane_result, interp_at, interp_store, if_neg hi]
    rcases h with h | h <;> subst h <;> rfl

/-- Peeking is popping without the store: for a lane 0 or 1 the peeked value is the value the
next pop of that lane returns. -/
theorem interp_peek_eq_pop (a : interp_hw_array) (interp lane : Nat) (hl : lane < 2) :
    interp_peek_lane_result a interp lane = (interp_pop_lane_result a interp lane).2 := by
  rw [interp_pop_value a interp lane hl]
  rfl

/-- Counterexample to C34: after `set_default_interp_config()` and
`set_interp_scans(8, 1000, 2000, 3000)` on the zero-initialised interpolators, a pop on
`interp1` advances the colour scan by 8 to 2008 but the background scan by 1 to 3001, and
leaves the memory scan at 1000. -/
theorem interp_background_scan_stride :
    (interp_pop_lane_result
      (set_interp_scans (set_default_interp_config
        (interp_hw_array.mk (interp_hw_t.mk (fun _ => 0) (fun _ => 0) 0)
          (interp_hw_t.mk (fun _ => 0) (fun _ => 0) 0))) 8 1000 2000 3000) 1 0).2 = 2008 ∧
    (interp_pop_lane_result
      (set_interp_scans (set_default_interp_config
        (interp_hw_array.mk (interp_hw_t.mk (fun _ => 0) (fun _ => 0) 0)
          (interp_hw_t.mk (fun _ => 0) (fun _ => 0) 0))) 8 1000 2000 3000) 1 0).1.interp1.accum 1
      = 3001 ∧
    (interp_pop_lane_result
      (set_interp_scans (set_default_interp_config
        (interp_hw_array.mk (interp_hw_t.mk (fun _ => 0) (fun _ => 0) 0)
          (interp_hw_t.mk (fun _ => 0) (fun _ => 0) 0))) 8 1000 2000 3000) 1 0).1.interp1.accum 1
      ≠ 3000 + 8 ∧
    (interp_pop_lane_result
      (set_interp_scans (set_default_interp_config
        (interp_hw_array.mk (interp_hw_t.mk (fun _ => 0) (fun _ => 0) 0)
          (interp_hw_t.mk (fun _ => 0) (fun _ => 0) 0))) 8 1000 2000 3000) 1 0).1.interp0.accum 0
      = 1000 := by
  decide

/-- C34, amended: after `set_interp_scans(row_height, memory_scan, colour_scan, backgr_scan)` the
scans are the three pointers, `interp0->base[0]` is the row height and `interp0->base[1]` is
what it was (1 after `set_default_interp_config()`).  A pop changes only the interpolator it
is called on and no base: from any state `b`, a pop on `interp0` advances the memory scan by
`interp0->base[0]`, a pop on `interp1` advances the colour scan by `interp0->base[0]` and the
background scan by `interp0->base[1]`.  So the first pop on `interp0` after
`set_interp_scans` moves the memory scan by the row height, the first pop on `interp1` moves
the colour scan by the row height and the background scan by `interp0->base[1]`.  A peek of
lane 0 or 1 is the value the next pop of that lane returns. -/
theorem interp_scans_advance (a : interp_hw_array)
    (row_height memory_scan colour_scan backgr_scan : Nat) :
    ((set_interp_scans a row_height memory_scan colour_scan backgr_scan).interp0.accum 0 =
        memory_scan % 2 ^ 64 ∧
      (set_interp_scans a row_height memory_scan colour_scan backgr_scan).interp1.accum 0 =
        colour_scan % 2 ^ 64 ∧
      (set_interp_scans a row_height memory_scan colour_scan backgr_scan).interp1.accum 1 =
        backgr_scan % 2 ^ 64 ∧
      (set_interp_scans a row_height memory_scan colour_scan backgr_scan).interp0.base 0 =
        row_height % 256 ∧
      (set_interp_scans a row_height memory_scan colour_scan backgr_scan).interp0.base 1 =
        a.interp0.base 1 ∧
      (set_interp_scans (set_default_interp_config a) row_height memory_scan colour_scan
        backgr_scan).interp0.base 1 = 1) ∧
    (∀ (b : interp_hw_array) (lane : Nat),
      (interp_pop_lane_result b 0 lane).1.interp0.accum 0 =
        (b.interp0.accum 0 + b.interp0.base 0) % 2 ^ 64 ∧
      (interp_pop_lane_result b 0 lane).1.interp0.base = b.interp0.base ∧
      (interp_pop_lane_result b 0 lane).1.interp1 = b.interp1) ∧
    (∀ (b : interp_hw_array) (lane : Nat),
      (interp_pop_lane_result b 1 lane).1.interp1.accum 0 =
        (b.interp1.accum 0 + b.interp0.base 0) % 2 ^ 64 ∧
      (interp_pop_lane_result b 1 lane).1.interp1.accum 1 =
        (b.interp1.accum 1 + b.interp0.base 1) % 2 ^ 64 ∧
      (interp_pop_lane_result b 1 lane).1.interp1.base = b.interp1.base ∧
      (interp_pop_lane_result b 1 lane).1.interp0 = b.interp0) ∧
    (∀ lane : Nat,
      (interp_pop_lane_result (set_interp_scans a row_height memory_scan colour_scan
        backgr_scan) 0 lane).1.interp0.accum 0 =
        (memory_scan % 2 ^ 64 + row_height % 256) % 2 ^ 64 ∧
      (interp_pop_lane_result (set_interp_scans a row_height memory_scan colour_scan
        backgr_scan) 1 lane).1.interp1.accum 0 =
        (colour_scan % 2 ^ 64 + row_height % 256) % 2 ^ 64 ∧
      (interp_pop_lane_result (set_interp_scans a row_height memory_scan colour_scan
        backgr_scan) 1 lane).1.interp1.accum 1 =
        (backgr_scan % 2 ^ 64 + a.interp0.base 1) % 2 ^ 64) ∧
    (∀ (b : interp_hw_array) (interp lane : Nat), lane < 2 →
      interp_peek_lane_result b interp lane = (interp_pop_lane_result b interp lane).2 ∧
      interp_peek_lane_result b interp lane =
        ((interp_at b interp).accum lane + b.interp0.base lane) % 2 ^ 64) :=
  ⟨⟨rfl, rfl, rfl, rfl, rfl, rfl⟩,
   fun _ _ => ⟨rfl, rfl, rfl⟩,
   fun _ _ => ⟨rfl, rfl, rfl, rfl⟩,
   fun _ => ⟨rfl, rfl, rfl⟩,
   fun b interp lane hl => ⟨interp_peek_eq_pop b interp lane hl, rfl⟩⟩

/-! ## The encoder of mode 5, doubled, mapped -/

/-- A 2-bit field always selects a colour: the `default:` case is not reached. -/
theorem cgia_mode5_color_some (shared_colors : Nat → Nat) (bg_cl fg_cl x : Nat) :
    ∃ v, cgia_mode5_color shared_colors bg_cl fg_cl (x &&& 0b11) = some v := by
  have h : x &&& 0b11 ≤ 3 := Nat.and_le_right
  generalize x &&& 0b11 = y at h
  interval_cases y
  · exact ⟨_, rfl⟩
  · exact ⟨_, rfl⟩
  · exact ⟨_, rfl⟩
  · exact ⟨_, rfl⟩

/-- One pass of the `for` loop over the shifts with `shift >= 0`. -/
theorem cgia_mode5_shifts_step (shared_colors : Nat → Nat) (bg_cl fg_cl bits n : Nat) (shift : Int)
    (h : shift ≥ 0) (s : (Nat → Nat) × Nat) (v : Nat)
    (hv : cgia_mode5_color shared_colors bg_cl fg_cl ((bits >>> shift.toNat) &&& 0b11) = some v) :
    cgia_mode5_shifts shared_colors bg_cl fg_cl bits (n + 1) shift s =
      cgia_mode5_shifts shared_colors bg_cl fg_cl bits n (shift - 2)
        (array_set (array_set s.1 s.2 v) (s.2 + 1) v, s.2 + 2) := by
  rw [cgia_mode5_shifts, if_pos h]
  simp only [hv]

/-- The `for` loop over the shifts ends when `shift` is negative. -/
theorem cgia_mode5_shifts_end (shared_colors : Nat → Nat) (bg_cl fg_cl bits n : Nat) (shift : Int)
    (h : ¬ shift ≥ 0) (s : (Nat → Nat) × Nat) :
    cgia_mode5_shifts shared_colors bg_cl fg_cl bits n shift s = some s := by
  cases n with
  | zero => rw [cgia_mode5_shifts, if_neg h]
  | succ n => rw [cgia_mode5_shifts, if_neg h]

/-- The two stores of one field: both pixels hold the colour, the other pixels are unchanged. -/
theorem array_set_pair (buf : Nat → Nat) (q v : Nat) :
    array_set (array_set buf q v) (q + 1) v q = v ∧
    array_set (array_set buf q v) (q + 1) v (q + 1) = v ∧
    ∀ i, i ≠ q → i ≠ q + 1 → array_set (array_set buf q v) (q + 1) v i = buf i := by
  refine ⟨?_, ?_, ?_⟩
  · show (if q = q + 1 then v else if q = q then v else buf q) = v
    rw [if_neg (by omega), if_pos rfl]
  · show (if q + 1 = q + 1 then v else if q + 1 = q then v else buf (q + 1)) = v
    rw [if_pos rfl]
  · intro i h1 h2
    show (if i = q + 1 then v else if i = q then v else buf i) = buf i
    rw [if_neg h2, if_neg h1]

/-- The `for` loop of one column: eight pixels are written, two for each of the four fields. -/
theorem cgia_mode5_shifts_spec (shared_colors : Nat → Nat) (bg_cl fg_cl bits : Nat)
    (buf : Nat → Nat) (p : Nat) :
    ∃ buf1, cgia_mode5_shifts shared_colors bg_cl fg_cl bits 5 6 (buf, p) = some (buf1, p + 8) ∧
      (∀ i, i < p ∨ p + 8 ≤ i → buf1 i = buf i) ∧
      ∀ j, j < 4 →
        cgia_mode5_color shared_colors bg_cl fg_cl ((bits >>> (6 - 2 * j)) &&& 0b11) =
          some (buf1 (p + 2 * j)) ∧
        buf1 (p + 2 * j + 1) = buf1 (p + 2 * j) := by
  obtain ⟨v0, h0⟩ := cgia_mode5_color_some shared_colors bg_cl fg_cl (bits >>> 6)
  obtain ⟨v1, h1⟩ := cgia_mode5_color_some shared_colors bg_cl fg_cl (bits >>> 4)
  obtain ⟨v2, h2⟩ := cgia_mode5_color_some shared_colors bg_cl fg_cl (bits >>> 2)
  obtain ⟨v3, h3⟩ := cgia_mode5_color_some shared_colors bg_cl fg_cl (bits >>> 0)
  obtain ⟨b0, e0⟩ : ∃ b, b = array_set (array_set buf p v0) (p + 1) v0 := ⟨_, rfl⟩
  obtain ⟨b1, e1⟩ : ∃ b, b = array_set (array_set b0 (p + 2) v1) (p + 2 + 1) v1 := ⟨_, rfl⟩
  obtain ⟨b2, e2⟩ : ∃ b, b = array_set (array_set b1 (p + 2 + 2) v2) (p + 2 + 2 + 1) v2 :=
    ⟨_, rfl⟩
  obtain ⟨b3, e3⟩ :
      ∃ b, b = array_set (array_set b2 (p + 2 + 2 + 2) v3) (p + 2 + 2 + 2 + 1) v3 := ⟨_, rfl⟩
  obtain ⟨w0a, w0b, w0c⟩ := array_set_pair buf p v0
  obtain ⟨w1a, w1b, w1c⟩ := array_set_pair b0 (p + 2) v1
  obtain ⟨w2a, w2b, w2c⟩ := array_set_pair b1 (p + 2 + 2) v2
  obtain ⟨w3a, w3b, w3c⟩ := array_set_pair b2 (p + 2 + 2 + 2) v3
  rw [← e0] at w0a w0b w0c
  rw [← e1] at w1a w1b w1c
  rw [← e2] at w2a w2b w2c
  rw [← e3] at w3a w3b w3c
  have f0 : b3 p = v0 := by
    rw [w3c p (by omega) (by omega), w2c p (by omega) (by omega), w1c p (by omega) (by omega),
      w0a]
  have g0 : b3 (p + 1) = v0 := by
    rw [w3c _ (by omega) (by omega), w2c _ (by omega) (by omega), w1c _ (by omega) (by omega),
      w0b]
  have f1 : b3 (p + 2) = v1 := by
    rw [w3c _ (by omega) (by omega), w2c _ (by omega) (by omega), w1a]
  have g1 : b3 (p + 2 + 1) = v1 := by
    rw [w3c _ (by omega) (by omega), w2c _ (by omega) (by omega), w1b]
  have f2 : b3 (p + 2 + 2) = v2 := by
    rw [w3c _ (by omega) (by omega), w2a]
  have g2 : b3 (p + 2 + 2 + 1) = v2 := by
    rw [w3c _ (by omega) (by omega), w2b]
  refine ⟨b3, ?_, ?_, ?_⟩
  · rw [cgia_mode5_shifts_step shared_colors bg_cl fg_cl bits 4 6 (by decide) _ v0 h0,
      show (6 : Int) - 2 = 4 from rfl]
    dsimp only
    rw [cgia_mode5_shifts_step shared_colors bg_cl fg_cl bits 3 4 (by decide) _ v1 h1,
      show (4 : Int) - 2 = 2 from rfl]
    dsimp only
    rw [cgia_mode5_shifts_step shared_colors bg_cl fg_cl bits 2 2 (by decide) _ v2 h2,
      show (2 : Int) - 2 = 0 from rfl]
    dsimp only
    rw [cgia_mode5_shifts_step shared_colors bg_cl fg_cl bits 1 0 (by decide) _ v3 h3,
      show (0 : Int) - 2 = -2 from rfl]
    dsimp only
    rw [cgia_mode5_shifts_end shared_colors bg_cl fg_cl bits 1 (-2) (by decide) _, e3, e2, e1,
      e0]
  · intro i hi
    rw [w3c i (by omega) (by omega), w2c i (by omega) (by omega), w1c i (by omega) (by omega),
      w0c i (by omega) (by omega)]
  · intro j hj
    interval_cases j
    · exact ⟨h0.trans (congrArg some f0.symm), g0.trans f0.symm⟩
    · exact ⟨h1.trans (congrArg some f1.symm), g1.trans f1.symm⟩
    · exact ⟨h2.trans (congrArg some f2.symm), g2.trans f2.symm⟩
    · exact ⟨h3.trans (congrArg some w3a.symm), w3b.trans w3a.symm⟩

/-- Address arithmetic of a scan: one advance followed by `k + 1` advances is `k + 2`
advances. -/
theorem scan_shift (x b k : Nat) :
    ((x + b) % 2 ^ 64 + (k + 1) * b) % 2 ^ 64 = (x + (k + 1 + 1) * b) % 2 ^ 64 := by
  rw [Nat.add_mod, Nat.mod_mod, ← Nat.add_mod]
  congr 1
  ring

/-- One pass of the `while` loop: the bytes are fetched through the interpolators, the `for`
loop writes the column, the loop goes on with the popped interpolators. -/
theorem cgia_encode_step (mem shared_colors : Nat → Nat) (columns : Nat) (a : interp_hw_array)
    (buf buf1 : Nat → Nat) (p : Nat)
    (h : cgia_mode5_shifts shared_colors
      (mem ((a.interp1.accum 1 + a.interp0.base 1) % 2 ^ 64) % 256)
      (mem ((a.interp1.accum 0 + a.interp0.base 0) % 2 ^ 64) % 256)
      (mem ((a.interp0.accum 0 + a.interp0.base 0) % 2 ^ 64) % 256) 5 6 (buf, p) =
        some (buf1, p + 8)) :
    cgia_encode_mode_5_doubled_mapped mem shared_colors (columns + 1) (a, buf, p) =
      cgia_encode_mode_5_doubled_mapped mem shared_colors columns
        ((interp_pop_lane_result (interp_pop_lane_result a 1 0).1 0 0).1, buf1, p + 8) := by
  rw [cgia_encode_mode_5_doubled_mapped]
  dsimp only
  have e1 : interp_peek_lane_result a 1 1 = (a.interp1.accum 1 + a.interp0.base 1) % 2 ^ 64 := rfl
  have e2 : (interp_pop_lane_result a 1 0).2 = (a.interp1.accum 0 + a.interp0.base 0) % 2 ^ 64 :=
    rfl
  have e3 : (interp_pop_lane_result (interp_pop_lane_result a 1 0).1 0 0).2 =
      (a.interp0.accum 0 + a.interp0.base 0) % 2 ^ 64 := rfl
  rw [e1, e2, e3, h]

/-- The encoder on `columns` columns: it returns, the pointer is advanced by `8 * columns`,
the pixels outside that range are unchanged and the pixels of column `k` are the colours of
the four fields of the bits byte of that column. -/
theorem cgia_encode_spec (mem shared_colors : Nat → Nat) :
    ∀ (columns : Nat) (a : interp_hw_array) (buf : Nat → Nat) (p : Nat),
      ∃ a2 buf2,
        cgia_encode_mode_5_doubled_mapped mem shared_colors columns (a, buf, p) =
          some (a2, buf2, p + 8 * columns) ∧
        (∀ i, i < p ∨ p + 8 * columns ≤ i → buf2 i = buf i) ∧
        ∀ k, k < columns → ∀ j, j < 4 →
          cgia_mode5_color shared_colors
            (mem ((a.interp1.accum 1 + (k + 1) * a.interp0.base 1) % 2 ^ 64) % 256)
            (mem ((a.interp1.accum 0 + (k + 1) * a.interp0.base 0) % 2 ^ 64) % 256)
            (((mem ((a.interp0.accum 0 + (k + 1) * a.interp0.base 0) % 2 ^ 64) % 256)
              >>> (6 - 2 * j)) &&& 0b11) = some (buf2 (p + 8 * k + 2 * j)) ∧
          buf2 (p + 8 * k + 2 * j + 1) = buf2 (p + 8 * k + 2 * j) := by
  intro columns
  induction columns with
  | zero =>
    intro a buf p
    exact ⟨a, buf, rfl, fun _ _ => rfl, fun k hk => absurd hk (Nat.not_lt_zero k)⟩
  | succ n ih =>
    intro a buf p
    obtain ⟨buf1, hs, hu, hc⟩ := cgia_mode5_shifts_spec shared_colors
      (mem ((a.interp1.accum 1 + a.interp0.base 1) % 2 ^ 64) % 256)
      (mem ((a.interp1.accum 0 + a.interp0.base 0) % 2 ^ 64) % 256)
      (mem ((a.interp0.accum 0 + a.interp0.base 0) % 2 ^ 64) % 256) buf p
    obtain ⟨a2, buf2, he, hu2, hc2⟩ :=
      ih (interp_pop_lane_result (interp_pop_lane_result a 1 0).1 0 0).1 buf1 (p + 8)
    have b0 : (interp_pop_lane_result (interp_pop_lane_result a 1 0).1 0 0).1.interp0.base =
        a.interp0.base := rfl
    have a0 : (interp_pop_lane_result (interp_pop_lane_result a 1 0).1 0 0).1.interp0.accum 0 =
        (a.interp0.accum 0 + a.interp0.base 0) % 2 ^ 64 := rfl
    have a10 : (interp_pop_lane_result (interp_pop_lane_result a 1 0).1 0 0).1.interp1.accum 0 =
        (a.interp1.accum 0 + a.interp0.base 0) % 2 ^ 64 := rfl
    have a11 : (interp_pop_lane_result (interp_pop_lane_result a 1 0).1 0 0).1.interp1.accum 1 =
        (a.interp1.accum 1 + a.interp0.base 1) % 2 ^ 64 := rfl
    rw [b0, a0, a10, a11] at hc2
    refine ⟨a2, buf2, ?_, ?_, ?_⟩
    · rw [cgia_encode_step mem shared_colors n a buf buf1 p hs, he]
      congr 3
      omega
    · intro i hi
      rw [hu2 i (by omega), hu i (by omega)]
    · intro k hk j hj
      cases k with
      | zero =>
        have h1 := hc j hj
        have e : p + 8 * 0 + 2 * j = p + 2 * j := by omega
        rw [e, hu2 (p + 2 * j) (by omega), hu2 (p + 2 * j + 1) (by omega), Nat.zero_add,
          Nat.one_mul, Nat.one_mul]
        exact h1
      | succ k =>
        have h1 := hc2 k (by omega) j hj
        have e : p + 8 * (k + 1) + 2 * j = p + 8 + 8 * k + 2 * j := by omega
        rw [scan_shift, scan_shift, scan_shift] at h1
        rw [e]
        exact h1

/-- C33: `cgia_encode_mode_5_doubled_mapped` on `columns` columns returns (the `abort()` of the
`default:` case is not reached, a 2-bit field always selects a colour), the returned pointer
is `rgbbuf + 8 * columns`, no pixel outside these `8 * columns` is written, and for column `k`
with the fetched background byte `bg`, foreground byte `fg` and bits byte `b` (read at the
peeked lane 1 of `interp1`, the popped lane 0 of `interp1` and the popped lane 0 of `interp0`,
each scan advanced `k + 1` times) the pixels `8k + 2j` and `8k + 2j + 1`, `j = 0..3`, are both
the colour that the `switch` selects for the field `(b >> (6 - 2j)) & 3`: `shared_colors[0]`
for 0, `bg` for 1, `fg` for 2, `shared_colors[1]` for 3. -/
theorem cgia_encode_mode_5_doubled_mapped_pixels (mem shared_colors : Nat → Nat) (columns : Nat)
    (a : interp_hw_array) (buf : Nat → Nat) (rgbbuf : Nat) :
    (∀ bg fg x, cgia_mode5_color shared_colors bg fg (x &&& 0b11) =
      some (if x &&& 0b11 = 0 then shared_colors 0 % 256 else if x &&& 0b11 = 1 then bg
        else if x &&& 0b11 = 2 then fg else shared_colors 1 % 256)) ∧
    ∃ a2 buf2,
      cgia_encode_mode_5_doubled_mapped mem shared_colors columns (a, buf, rgbbuf) =
        some (a2, buf2, rgbbuf + 8 * columns) ∧
      (∀ i, i < rgbbuf ∨ rgbbuf + 8 * columns ≤ i → buf2 i = buf i) ∧
      ∀ k, k < columns → ∀ j, j < 4 →
        cgia_mode5_color shared_colors
          (mem ((a.interp1.accum 1 + (k + 1) * a.interp0.base 1) % 2 ^ 64) % 256)
          (mem ((a.interp1.accum 0 + (k + 1) * a.interp0.base 0) % 2 ^ 64) % 256)
          (((mem ((a.interp0.accum 0 + (k + 1) * a.interp0.base 0) % 2 ^ 64) % 256)
            >>> (6 - 2 * j)) &&& 0b11) = some (buf2 (rgbbuf + 8 * k + 2 * j)) ∧
        buf2 (rgbbuf + 8 * k + 2 * j + 1) = buf2 (rgbbuf + 8 * k + 2 * j) := by
  refine ⟨?_, cgia_encode_spec mem shared_colors columns a buf rgbbuf⟩
  intro bg fg x
  have h : x &&& 0b11 ≤ 3 := Nat.and_le_right
  generalize x &&& 0b11 = y at h
  interval_cases y <;> rfl

end W65816
